import Mathlib

/-!
Shallow embedding of `tic_tac_toe.py`: a 3×3 board of `uint8` cells
(modelled as natural numbers below 256; writes are truncated modulo 256
exactly as numpy's `uint8` assignment does), the `Board` operations
(`play`, `check_board`, `get_board`/`set_board`) and the
`Agent.read_board` minimax search.
-/

namespace TicTacToe

/-- The 3×3 grid of `uint8` cells (`np.zeros(shape=(3,3), dtype='uint8')`).
Cell values are modelled as `Nat`; all writes go through `setCell`, which
applies the `uint8` truncation. -/
structure Grid where
  c00 : Nat
  c01 : Nat
  c02 : Nat
  c10 : Nat
  c11 : Nat
  c12 : Nat
  c20 : Nat
  c21 : Nat
  c22 : Nat
deriving DecidableEq, Repr

/-- `uint8` truncation applied by numpy when an `int` is assigned into
the board. -/
def u8 (v : Int) : Nat := (v.emod 256).toNat

/-- The all-zeros grid: `np.zeros(shape=(3,3), dtype='uint8')`. -/
def zeros : Grid := ⟨0, 0, 0, 0, 0, 0, 0, 0, 0⟩

/-- Read `board[i, j]` (in-range indices are 0, 1, 2; any other index is
never read by the embedded code paths). -/
def get (g : Grid) (i j : Nat) : Nat :=
  if i == 0 then
    if j == 0 then g.c00 else if j == 1 then g.c01 else if j == 2 then g.c02 else 0
  else if i == 1 then
    if j == 0 then g.c10 else if j == 1 then g.c11 else if j == 2 then g.c12 else 0
  else if i == 2 then
    if j == 0 then g.c20 else if j == 1 then g.c21 else if j == 2 then g.c22 else 0
  else 0

/-- Write `board[i, j] = v` (numpy truncates the assigned `int` to
`uint8`). Out-of-range indices leave the grid unchanged (such writes are
never exercised by the embedded code). -/
def setCell (g : Grid) (i j : Nat) (v : Int) : Grid :=
  if i == 0 then
    if j == 0 then { g with c00 := u8 v }
    else if j == 1 then { g with c01 := u8 v }
    else if j == 2 then { g with c02 := u8 v } else g
  else if i == 1 then
    if j == 0 then { g with c10 := u8 v }
    else if j == 1 then { g with c11 := u8 v }
    else if j == 2 then { g with c12 := u8 v } else g
  else if i == 2 then
    if j == 0 then { g with c20 := u8 v }
    else if j == 1 then { g with c21 := u8 v }
    else if j == 2 then { g with c22 := u8 v } else g
  else g

/-- All nine coordinates in row-major order (row 0, then 1, then 2,
each left to right) — the order in which numpy scans the array. -/
def coords : List (Nat × Nat) :=
  [(0, 0), (0, 1), (0, 2), (1, 0), (1, 1), (1, 2), (2, 0), (2, 1), (2, 2)]

/-- `Board.play`: bounds check, occupied check, then write.  Returns the
boolean result together with the resulting grid (row and column are
Python `int`s, so they may be negative). -/
def play (g : Grid) (player row_i col_j : Int) : Bool × Grid :=
  if row_i < 0 ∨ row_i > 2 ∨ col_j < 0 ∨ col_j > 2 then
    (false, g)
  else if get g row_i.toNat col_j.toNat ≠ 0 then
    (false, g)
  else
    (true, setCell g row_i.toNat col_j.toNat player)

/-- `Board.__check`: a mask wins when some row, some column, or a
diagonal is all `true`. -/
def check (m : Nat → Nat → Bool) : Bool :=
  (m 0 0 && m 0 1 && m 0 2) || (m 0 0 && m 1 0 && m 2 0) ||
  ((m 1 0 && m 1 1 && m 1 2) || (m 0 1 && m 1 1 && m 2 1)) ||
  ((m 2 0 && m 2 1 && m 2 2) || (m 0 2 && m 1 2 && m 2 2)) ||
  (m 0 0 && m 1 1 && m 2 2) || (m 0 2 && m 1 1 && m 2 0)

/-- The boolean mask `board == p`. -/
def mask (g : Grid) (p : Nat) : Nat → Nat → Bool :=
  fun i j => get g i j == p

/-- `np.any(board == 0)`. -/
def anyEmpty (g : Grid) : Bool :=
  coords.any (fun ij => get g ij.1 ij.2 == 0)

/-- `Board.check_board`: 1 = player 1 win, 2 = player 2 win,
0 = game not over, -1 = draw (no one wins). -/
def check_board (g : Grid) : Int :=
  if check (mask g 1) then 1
  else if check (mask g 2) then 2
  else if anyEmpty g then 0 else -1

/-- `np.where(board == 0)`: empty cells in row-major scan order. -/
def empties (g : Grid) : List (Nat × Nat) :=
  coords.filter (fun ij => get g ij.1 ij.2 == 0)

/-- Number of empty cells of a grid. -/
def emptyCount (g : Grid) : Nat := (empties g).length

/-- `np.max` of a list of scores (junk value 0 on the empty list, which
numpy would reject; never reached in the embedded code). -/
def listMax : List Int → Int
  | [] => 0
  | [x] => x
  | x :: y :: xs => max x (listMax (y :: xs))

/-- `np.min` of a list of scores (same convention as `listMax`). -/
def listMin : List Int → Int
  | [] => 0
  | [x] => x
  | x :: y :: xs => min x (listMin (y :: xs))

/-- `np.argmax`: index of the first occurrence of the maximum. -/
def argmaxIdx : List Int → Nat
  | [] => 0
  | [_] => 0
  | x :: y :: xs => if listMax (y :: xs) > x then argmaxIdx (y :: xs) + 1 else 0

/-- `np.argmin`: index of the first occurrence of the minimum. -/
def argminIdx : List Int → Nat
  | [] => 0
  | [_] => 0
  | x :: y :: xs => if listMin (y :: xs) < x then argminIdx (y :: xs) + 1 else 0

/-- `1 if player == 2 else 2`. -/
def nextPlayer (p : Int) : Int := if p = 2 then 1 else 2

/-- The recursive score collection of `Agent.read_board`: for every
candidate move, play `player`'s mark on a copy and recurse (through
`rec`, the one-smaller-fuel search). `none` bubbles up fuel exhaustion. -/
def collectScores (rec : Grid → Int → Option (Int × Option (Nat × Nat)))
    (g : Grid) (player : Int) : List (Nat × Nat) → Option (List Int)
  | [] => some []
  | ij :: rest =>
    match rec (setCell g ij.1 ij.2 player) (nextPlayer player) with
    | none => none
    | some (s, _) =>
      match collectScores rec g player rest with
      | none => none
      | some ss => some (s :: ss)

/-- `Agent.read_board`, fuel-indexed to make the (terminating) recursion
structural: `none` means the fuel ran out before the search finished.
`self` is the agent's `self.player`. -/
def readBoardAux (self : Int) : Nat → Grid → Int → Option (Int × Option (Nat × Nat))
  | 0, _, _ => none
  | fuel + 1, g, player =>
    let value := check_board g
    if value ≠ 0 then
      some ((if value = -1 then 0 else if value = self then 1 else -1), none)
    else
      match collectScores (readBoardAux self fuel) g player (empties g) with
      | none => none
      | some scores =>
        if self = player then
          some (listMax scores, some ((empties g).getD (argmaxIdx scores) (0, 0)))
        else
          some (listMin scores, some ((empties g).getD (argminIdx scores) (0, 0)))

/-- `Agent.read_board` itself: fuel 11 always suffices (at most 9 empty
cells, plus one ply that may not consume an empty cell when the mark
truncates to 0, plus the terminal check). -/
def read_board (self : Int) (g : Grid) (player : Int) :
    Option (Int × Option (Nat × Nat)) :=
  readBoardAux self 11 g player

/-! Shorthand constants, used by the generated position lemmas below to
keep their statements cheap to elaborate. -/

def N0 : Nat := 0

def N1 : Nat := 1

def N2 : Nat := 2

def P1 : Int := 1

def P2 : Int := 2

def Z0 : Int := 0

def ZP : Int := 1

def ZM : Int := -1

def M00 : Nat × Nat := (N0, N0)

def M01 : Nat × Nat := (N0, N1)

def M02 : Nat × Nat := (N0, N2)

def M10 : Nat × Nat := (N1, N0)

def M11 : Nat × Nat := (N1, N1)

def M12 : Nat × Nat := (N1, N2)

def M20 : Nat × Nat := (N2, N0)

def M21 : Nat × Nat := (N2, N1)

def M22 : Nat × Nat := (N2, N2)

/-! ### Spec-side predicates

These are written from the specification's wording ("three-in-a-row:
row, column, or either diagonal", "at least one Empty cell remains") and
are compared against the mask-based code definitions. -/

/-- Player `p` has a completed line: some row, some column, the main
diagonal, or the anti-diagonal is entirely `p`. -/
def winsProp (g : Grid) (p : Nat) : Prop :=
  (∃ i : Fin 3, ∀ j : Fin 3, get g i.val j.val = p) ∨
  (∃ j : Fin 3, ∀ i : Fin 3, get g i.val j.val = p) ∨
  (∀ k : Fin 3, get g k.val k.val = p) ∨
  (∀ k : Fin 3, get g k.val (2 - k.val) = p)

/-- Some cell of the grid is Empty. -/
def existsEmpty (g : Grid) : Prop :=
  ∃ i : Fin 3, ∃ j : Fin 3, get g i.val j.val = 0

instance (g : Grid) (p : Nat) : Decidable (winsProp g p) := by
  unfold winsProp
  infer_instance

instance (g : Grid) : Decidable (existsEmpty g) := by
  unfold existsEmpty
  infer_instance

/-! ### A heap model of the numpy arrays

Python variables hold references to numpy arrays. To state the aliasing
behaviour of `Board.set_board`/`Board.get_board` and the frame property
of `Agent.read_board` we model the allocated arrays as a list `List Grid`
(the heap) and a reference as an index into it. -/

/-- A `Board` object: its private `__board` attribute is a reference to
an array in the heap. -/
structure BoardObj where
  ref : Nat
deriving DecidableEq, Repr

/-- Dereference a board object's array. -/
def boardOf (h : List Grid) (b : BoardObj) : Grid := h.getD b.ref zeros

/-- `Board.__init__`: allocate a fresh zeros array and point to it. -/
def newBoard (h : List Grid) : BoardObj × List Grid :=
  (⟨h.length⟩, h ++ [zeros])

/-- `Board.set_board`: install the caller's array by reference — no copy
is taken. -/
def set_board (_b : BoardObj) (r : Nat) : BoardObj := ⟨r⟩

/-- `Board.get_board`: allocate a copy of the object's array and return
a reference to the copy. -/
def get_board (h : List Grid) (b : BoardObj) : Nat × List Grid :=
  (h.length, h ++ [boardOf h b])

/-- `Board.play` acting through a board object: reads the referenced
array and writes the updated array back to the same heap cell. -/
def playObj (h : List Grid) (b : BoardObj) (player row col : Int) :
    Bool × List Grid :=
  ((play (boardOf h b) player row col).1,
   h.set b.ref (play (boardOf h b) player row col).2)

/-- Heap-level score collection of `Agent.read_board`: for each candidate
move, `tmp_board = board.copy()` allocates a fresh array, the move is
written into that copy, and the search recurses on the copy's
reference. -/
def collectScoresH
    (rec : List Grid → Nat → Int → Option ((Int × Option (Nat × Nat)) × List Grid))
    (r : Nat) (player : Int) :
    List Grid → List (Nat × Nat) → Option (List Int × List Grid)
  | h, [] => some ([], h)
  | h, ij :: rest =>
    let c := h.length
    let h1 := h ++ [h.getD r zeros]
    let h2 := h1.set c (setCell (h1.getD c zeros) ij.1 ij.2 player)
    match rec h2 c (nextPlayer player) with
    | none => none
    | some (sm, h3) =>
      match collectScoresH rec r player h3 rest with
      | none => none
      | some (ss, h4) => some (sm.1 :: ss, h4)

/-- `Agent.read_board` at the heap level: the `board` argument is a
reference to an array owned by the caller. Mirrors the source line by
line: a fresh `Board()` is allocated, the caller's array is installed
into it by reference via `set_board`, the terminal check reads through
that alias, and every explored move is written to a fresh copy. -/
def readBoardAuxH (self : Int) :
    Nat → List Grid → Nat → Int → Option ((Int × Option (Nat × Nat)) × List Grid)
  | 0, _, _, _ => none
  | fuel + 1, h, r, player =>
    let tmp := newBoard h
    let tb := set_board tmp.1 r
    let h0 := tmp.2
    let value := check_board (boardOf h0 tb)
    if value ≠ 0 then
      some (((if value = -1 then 0 else if value = self then 1 else -1), none), h0)
    else
      match collectScoresH (readBoardAuxH self fuel) r player h0
          (empties (h0.getD r zeros)) with
      | none => none
      | some (scores, h1) =>
        if self = player then
          some ((listMax scores,
            some ((empties (h0.getD r zeros)).getD (argmaxIdx scores) (0, 0))), h1)
        else
          some ((listMin scores,
            some ((empties (h0.getD r zeros)).getD (argminIdx scores) (0, 0))), h1)

/-- `Agent.read_board` at the heap level, with the same fuel as
`read_board`. -/
def read_boardH (self : Int) (h : List Grid) (r : Nat) (player : Int) :
    Option ((Int × Option (Nat × Nat)) × List Grid) :=
  readBoardAuxH self 11 h r player

/-! ### Unfolding lemmas

Used to compute `readBoardAux` bottom-up over the game tree, sharing the
already-computed value of each child position. -/

theorem collectScores_nil {rec : Grid → Int → Option (Int × Option (Nat × Nat))}
    {g : Grid} {p : Int} : collectScores rec g p [] = some [] := rfl

theorem collectScores_cons {rec : Grid → Int → Option (Int × Option (Nat × Nat))}
    {g : Grid} {p : Int} {i j : Nat} {rest : List (Nat × Nat)} {s : Int}
    {m : Option (Nat × Nat)} {ss : List Int}
    (h1 : rec (setCell g i j p) (nextPlayer p) = some (s, m))
    (h2 : collectScores rec g p rest = some ss) :
    collectScores rec g p ((i, j) :: rest) = some (s :: ss) := by
  simp [collectScores, h1, h2]

theorem readBoardAux_step (self : Int) (fuel : Nat) (g : Grid) (p : Int)
    (ms : List (Nat × Nat)) {scores : List Int} {res : Int × Option (Nat × Nat)}
    (he : empties g = ms)
    (h0 : check_board g = 0)
    (hs : collectScores (readBoardAux self fuel) g p ms = some scores)
    (hres : (if self = p then
               (listMax scores, some (ms.getD (argmaxIdx scores) ((0 : Nat), (0 : Nat))))
             else
               (listMin scores, some (ms.getD (argminIdx scores) ((0 : Nat), (0 : Nat))))) = res) :
    readBoardAux self (fuel + 1) g p = some res := by
  subst hres
  simp only [readBoardAux, h0, he, hs, ne_eq, eq_self_iff_true, not_true_eq_false, ite_false]
  split <;> rfl

/-! ### The value of every reachable game position

One lemma per game position reachable from the empty board with
player 2 (the program's agent) moving first, ordered children before
parents, each proved by one application of the unfolding lemmas to
the values of its child positions. Names encode the grid contents in
row-major order; t-lemmas are terminal positions, v-lemmas interior
ones. -/

theorem t212121200 : readBoardAux P2 4 (⟨N2, N1, N2, N1, N2, N1, N2, N0, N0⟩ : Grid) P1 = some (ZP, none) :=
  rfl

theorem t212121122 : readBoardAux P2 2 (⟨N2, N1, N2, N1, N2, N1, N1, N2, N2⟩ : Grid) P1 = some (ZP, none) :=
  rfl

theorem v212121120 : readBoardAux P2 3 (⟨N2, N1, N2, N1, N2, N1, N1, N2, N0⟩ : Grid) P2 = some (ZP, some M22) :=
  readBoardAux_step P2 2 (⟨N2, N1, N2, N1, N2, N1, N1, N2, N0⟩ : Grid) P2 [M22] rfl rfl
    (collectScores_cons t212121122 collectScores_nil) rfl

theorem t212121221 : readBoardAux P2 2 (⟨N2, N1, N2, N1, N2, N1, N2, N2, N1⟩ : Grid) P1 = some (ZP, none) :=
  rfl

theorem v212121021 : readBoardAux P2 3 (⟨N2, N1, N2, N1, N2, N1, N0, N2, N1⟩ : Grid) P2 = some (ZP, some M20) :=
  readBoardAux_step P2 2 (⟨N2, N1, N2, N1, N2, N1, N0, N2, N1⟩ : Grid) P2 [M20] rfl rfl
    (collectScores_cons t212121221 collectScores_nil) rfl

theorem v212121020 : readBoardAux P2 4 (⟨N2, N1, N2, N1, N2, N1, N0, N2, N0⟩ : Grid) P1 = some (ZP, some M20) :=
  readBoardAux_step P2 3 (⟨N2, N1, N2, N1, N2, N1, N0, N2, N0⟩ : Grid) P1 [M20, M22] rfl rfl
    (collectScores_cons v212121120 (collectScores_cons v212121021 collectScores_nil)) rfl

theorem t212121002 : readBoardAux P2 4 (⟨N2, N1, N2, N1, N2, N1, N0, N0, N2⟩ : Grid) P1 = some (ZP, none) :=
  rfl

theorem v212121000 : readBoardAux P2 5 (⟨N2, N1, N2, N1, N2, N1, N0, N0, N0⟩ : Grid) P2 = some (ZP, some M20) :=
  readBoardAux_step P2 4 (⟨N2, N1, N2, N1, N2, N1, N0, N0, N0⟩ : Grid) P2 [M20, M21, M22] rfl rfl
    (collectScores_cons t212121200 (collectScores_cons v212121020 (collectScores_cons t212121002 collectScores_nil))) rfl

theorem t212122112 : readBoardAux P2 2 (⟨N2, N1, N2, N1, N2, N2, N1, N1, N2⟩ : Grid) P1 = some (ZP, none) :=
  rfl

theorem v212122110 : readBoardAux P2 3 (⟨N2, N1, N2, N1, N2, N2, N1, N1, N0⟩ : Grid) P2 = some (ZP, some M22) :=
  readBoardAux_step P2 2 (⟨N2, N1, N2, N1, N2, N2, N1, N1, N0⟩ : Grid) P2 [M22] rfl rfl
    (collectScores_cons t212122112 collectScores_nil) rfl

theorem t212122121 : readBoardAux P2 2 (⟨N2, N1, N2, N1, N2, N2, N1, N2, N1⟩ : Grid) P1 = some (Z0, none) :=
  rfl

theorem v212122101 : readBoardAux P2 3 (⟨N2, N1, N2, N1, N2, N2, N1, N0, N1⟩ : Grid) P2 = some (Z0, some M21) :=
  readBoardAux_step P2 2 (⟨N2, N1, N2, N1, N2, N2, N1, N0, N1⟩ : Grid) P2 [M21] rfl rfl
    (collectScores_cons t212122121 collectScores_nil) rfl

theorem v212122100 : readBoardAux P2 4 (⟨N2, N1, N2, N1, N2, N2, N1, N0, N0⟩ : Grid) P1 = some (Z0, some M22) :=
  readBoardAux_step P2 3 (⟨N2, N1, N2, N1, N2, N2, N1, N0, N0⟩ : Grid) P1 [M21, M22] rfl rfl
    (collectScores_cons v212122110 (collectScores_cons v212122101 collectScores_nil)) rfl

theorem v212120121 : readBoardAux P2 3 (⟨N2, N1, N2, N1, N2, N0, N1, N2, N1⟩ : Grid) P2 = some (Z0, some M12) :=
  readBoardAux_step P2 2 (⟨N2, N1, N2, N1, N2, N0, N1, N2, N1⟩ : Grid) P2 [M12] rfl rfl
    (collectScores_cons t212122121 collectScores_nil) rfl

theorem v212120120 : readBoardAux P2 4 (⟨N2, N1, N2, N1, N2, N0, N1, N2, N0⟩ : Grid) P1 = some (Z0, some M22) :=
  readBoardAux_step P2 3 (⟨N2, N1, N2, N1, N2, N0, N1, N2, N0⟩ : Grid) P1 [M12, M22] rfl rfl
    (collectScores_cons v212121120 (collectScores_cons v212120121 collectScores_nil)) rfl

theorem t212120102 : readBoardAux P2 4 (⟨N2, N1, N2, N1, N2, N0, N1, N0, N2⟩ : Grid) P1 = some (ZP, none) :=
  rfl

theorem v212120100 : readBoardAux P2 5 (⟨N2, N1, N2, N1, N2, N0, N1, N0, N0⟩ : Grid) P2 = some (ZP, some M22) :=
  readBoardAux_step P2 4 (⟨N2, N1, N2, N1, N2, N0, N1, N0, N0⟩ : Grid) P2 [M12, M21, M22] rfl rfl
    (collectScores_cons v212122100 (collectScores_cons v212120120 (collectScores_cons t212120102 collectScores_nil))) rfl

theorem t212122211 : readBoardAux P2 2 (⟨N2, N1, N2, N1, N2, N2, N2, N1, N1⟩ : Grid) P1 = some (ZP, none) :=
  rfl

theorem v212122011 : readBoardAux P2 3 (⟨N2, N1, N2, N1, N2, N2, N0, N1, N1⟩ : Grid) P2 = some (ZP, some M20) :=
  readBoardAux_step P2 2 (⟨N2, N1, N2, N1, N2, N2, N0, N1, N1⟩ : Grid) P2 [M20] rfl rfl
    (collectScores_cons t212122211 collectScores_nil) rfl

theorem v212122010 : readBoardAux P2 4 (⟨N2, N1, N2, N1, N2, N2, N0, N1, N0⟩ : Grid) P1 = some (ZP, some M20) :=
  readBoardAux_step P2 3 (⟨N2, N1, N2, N1, N2, N2, N0, N1, N0⟩ : Grid) P1 [M20, M22] rfl rfl
    (collectScores_cons v212122110 (collectScores_cons v212122011 collectScores_nil)) rfl

theorem t212120210 : readBoardAux P2 4 (⟨N2, N1, N2, N1, N2, N0, N2, N1, N0⟩ : Grid) P1 = some (ZP, none) :=
  rfl

theorem t212120012 : readBoardAux P2 4 (⟨N2, N1, N2, N1, N2, N0, N0, N1, N2⟩ : Grid) P1 = some (ZP, none) :=
  rfl

theorem v212120010 : readBoardAux P2 5 (⟨N2, N1, N2, N1, N2, N0, N0, N1, N0⟩ : Grid) P2 = some (ZP, some M12) :=
  readBoardAux_step P2 4 (⟨N2, N1, N2, N1, N2, N0, N0, N1, N0⟩ : Grid) P2 [M12, M20, M22] rfl rfl
    (collectScores_cons v212122010 (collectScores_cons t212120210 (collectScores_cons t212120012 collectScores_nil))) rfl

theorem v212122001 : readBoardAux P2 4 (⟨N2, N1, N2, N1, N2, N2, N0, N0, N1⟩ : Grid) P1 = some (Z0, some M20) :=
  readBoardAux_step P2 3 (⟨N2, N1, N2, N1, N2, N2, N0, N0, N1⟩ : Grid) P1 [M20, M21] rfl rfl
    (collectScores_cons v212122101 (collectScores_cons v212122011 collectScores_nil)) rfl

theorem t212120201 : readBoardAux P2 4 (⟨N2, N1, N2, N1, N2, N0, N2, N0, N1⟩ : Grid) P1 = some (ZP, none) :=
  rfl

theorem v212120021 : readBoardAux P2 4 (⟨N2, N1, N2, N1, N2, N0, N0, N2, N1⟩ : Grid) P1 = some (Z0, some M20) :=
  readBoardAux_step P2 3 (⟨N2, N1, N2, N1, N2, N0, N0, N2, N1⟩ : Grid) P1 [M12, M20] rfl rfl
    (collectScores_cons v212121021 (collectScores_cons v212120121 collectScores_nil)) rfl

theorem v212120001 : readBoardAux P2 5 (⟨N2, N1, N2, N1, N2, N0, N0, N0, N1⟩ : Grid) P2 = some (ZP, some M20) :=
  readBoardAux_step P2 4 (⟨N2, N1, N2, N1, N2, N0, N0, N0, N1⟩ : Grid) P2 [M12, M20, M21] rfl rfl
    (collectScores_cons v212122001 (collectScores_cons t212120201 (collectScores_cons v212120021 collectScores_nil))) rfl

theorem v212120000 : readBoardAux P2 6 (⟨N2, N1, N2, N1, N2, N0, N0, N0, N0⟩ : Grid) P1 = some (ZP, some M12) :=
  readBoardAux_step P2 5 (⟨N2, N1, N2, N1, N2, N0, N0, N0, N0⟩ : Grid) P1 [M12, M20, M21, M22] rfl rfl
    (collectScores_cons v212121000 (collectScores_cons v212120100 (collectScores_cons v212120010 (collectScores_cons v212120001 collectScores_nil)))) rfl

theorem t212112210 : readBoardAux P2 3 (⟨N2, N1, N2, N1, N1, N2, N2, N1, N0⟩ : Grid) P2 = some (ZM, none) :=
  rfl

theorem t212112221 : readBoardAux P2 2 (⟨N2, N1, N2, N1, N1, N2, N2, N2, N1⟩ : Grid) P1 = some (Z0, none) :=
  rfl

theorem v212112201 : readBoardAux P2 3 (⟨N2, N1, N2, N1, N1, N2, N2, N0, N1⟩ : Grid) P2 = some (Z0, some M21) :=
  readBoardAux_step P2 2 (⟨N2, N1, N2, N1, N1, N2, N2, N0, N1⟩ : Grid) P2 [M21] rfl rfl
    (collectScores_cons t212112221 collectScores_nil) rfl

theorem v212112200 : readBoardAux P2 4 (⟨N2, N1, N2, N1, N1, N2, N2, N0, N0⟩ : Grid) P1 = some (ZM, some M21) :=
  readBoardAux_step P2 3 (⟨N2, N1, N2, N1, N1, N2, N2, N0, N0⟩ : Grid) P1 [M21, M22] rfl rfl
    (collectScores_cons t212112210 (collectScores_cons v212112201 collectScores_nil)) rfl

theorem t212112122 : readBoardAux P2 2 (⟨N2, N1, N2, N1, N1, N2, N1, N2, N2⟩ : Grid) P1 = some (ZP, none) :=
  rfl

theorem v212112120 : readBoardAux P2 3 (⟨N2, N1, N2, N1, N1, N2, N1, N2, N0⟩ : Grid) P2 = some (ZP, some M22) :=
  readBoardAux_step P2 2 (⟨N2, N1, N2, N1, N1, N2, N1, N2, N0⟩ : Grid) P2 [M22] rfl rfl
    (collectScores_cons t212112122 collectScores_nil) rfl

theorem v212112021 : readBoardAux P2 3 (⟨N2, N1, N2, N1, N1, N2, N0, N2, N1⟩ : Grid) P2 = some (Z0, some M20) :=
  readBoardAux_step P2 2 (⟨N2, N1, N2, N1, N1, N2, N0, N2, N1⟩ : Grid) P2 [M20] rfl rfl
    (collectScores_cons t212112221 collectScores_nil) rfl

theorem v212112020 : readBoardAux P2 4 (⟨N2, N1, N2, N1, N1, N2, N0, N2, N0⟩ : Grid) P1 = some (Z0, some M22) :=
  readBoardAux_step P2 3 (⟨N2, N1, N2, N1, N1, N2, N0, N2, N0⟩ : Grid) P1 [M20, M22] rfl rfl
    (collectScores_cons v212112120 (collectScores_cons v212112021 collectScores_nil)) rfl

theorem t212112002 : readBoardAux P2 4 (⟨N2, N1, N2, N1, N1, N2, N0, N0, N2⟩ : Grid) P1 = some (ZP, none) :=
  rfl

theorem v212112000 : readBoardAux P2 5 (⟨N2, N1, N2, N1, N1, N2, N0, N0, N0⟩ : Grid) P2 = some (ZP, some M22) :=
  readBoardAux_step P2 4 (⟨N2, N1, N2, N1, N1, N2, N0, N0, N0⟩ : Grid) P2 [M20, M21, M22] rfl rfl
    (collectScores_cons v212112200 (collectScores_cons v212112020 (collectScores_cons t212112002 collectScores_nil))) rfl

theorem v212102121 : readBoardAux P2 3 (⟨N2, N1, N2, N1, N0, N2, N1, N2, N1⟩ : Grid) P2 = some (Z0, some M11) :=
  readBoardAux_step P2 2 (⟨N2, N1, N2, N1, N0, N2, N1, N2, N1⟩ : Grid) P2 [M11] rfl rfl
    (collectScores_cons t212122121 collectScores_nil) rfl

theorem v212102120 : readBoardAux P2 4 (⟨N2, N1, N2, N1, N0, N2, N1, N2, N0⟩ : Grid) P1 = some (Z0, some M22) :=
  readBoardAux_step P2 3 (⟨N2, N1, N2, N1, N0, N2, N1, N2, N0⟩ : Grid) P1 [M11, M22] rfl rfl
    (collectScores_cons v212112120 (collectScores_cons v212102121 collectScores_nil)) rfl

theorem t212102102 : readBoardAux P2 4 (⟨N2, N1, N2, N1, N0, N2, N1, N0, N2⟩ : Grid) P1 = some (ZP, none) :=
  rfl

theorem v212102100 : readBoardAux P2 5 (⟨N2, N1, N2, N1, N0, N2, N1, N0, N0⟩ : Grid) P2 = some (ZP, some M22) :=
  readBoardAux_step P2 4 (⟨N2, N1, N2, N1, N0, N2, N1, N0, N0⟩ : Grid) P2 [M11, M21, M22] rfl rfl
    (collectScores_cons v212122100 (collectScores_cons v212102120 (collectScores_cons t212102102 collectScores_nil))) rfl

theorem v212102211 : readBoardAux P2 3 (⟨N2, N1, N2, N1, N0, N2, N2, N1, N1⟩ : Grid) P2 = some (ZP, some M11) :=
  readBoardAux_step P2 2 (⟨N2, N1, N2, N1, N0, N2, N2, N1, N1⟩ : Grid) P2 [M11] rfl rfl
    (collectScores_cons t212122211 collectScores_nil) rfl

theorem v212102210 : readBoardAux P2 4 (⟨N2, N1, N2, N1, N0, N2, N2, N1, N0⟩ : Grid) P1 = some (ZM, some M11) :=
  readBoardAux_step P2 3 (⟨N2, N1, N2, N1, N0, N2, N2, N1, N0⟩ : Grid) P1 [M11, M22] rfl rfl
    (collectScores_cons t212112210 (collectScores_cons v212102211 collectScores_nil)) rfl

theorem t212102012 : readBoardAux P2 4 (⟨N2, N1, N2, N1, N0, N2, N0, N1, N2⟩ : Grid) P1 = some (ZP, none) :=
  rfl

theorem v212102010 : readBoardAux P2 5 (⟨N2, N1, N2, N1, N0, N2, N0, N1, N0⟩ : Grid) P2 = some (ZP, some M11) :=
  readBoardAux_step P2 4 (⟨N2, N1, N2, N1, N0, N2, N0, N1, N0⟩ : Grid) P2 [M11, M20, M22] rfl rfl
    (collectScores_cons v212122010 (collectScores_cons v212102210 (collectScores_cons t212102012 collectScores_nil))) rfl

theorem v212102201 : readBoardAux P2 4 (⟨N2, N1, N2, N1, N0, N2, N2, N0, N1⟩ : Grid) P1 = some (Z0, some M11) :=
  readBoardAux_step P2 3 (⟨N2, N1, N2, N1, N0, N2, N2, N0, N1⟩ : Grid) P1 [M11, M21] rfl rfl
    (collectScores_cons v212112201 (collectScores_cons v212102211 collectScores_nil)) rfl

theorem v212102021 : readBoardAux P2 4 (⟨N2, N1, N2, N1, N0, N2, N0, N2, N1⟩ : Grid) P1 = some (Z0, some M11) :=
  readBoardAux_step P2 3 (⟨N2, N1, N2, N1, N0, N2, N0, N2, N1⟩ : Grid) P1 [M11, M20] rfl rfl
    (collectScores_cons v212112021 (collectScores_cons v212102121 collectScores_nil)) rfl

theorem v212102001 : readBoardAux P2 5 (⟨N2, N1, N2, N1, N0, N2, N0, N0, N1⟩ : Grid) P2 = some (Z0, some M11) :=
  readBoardAux_step P2 4 (⟨N2, N1, N2, N1, N0, N2, N0, N0, N1⟩ : Grid) P2 [M11, M20, M21] rfl rfl
    (collectScores_cons v212122001 (collectScores_cons v212102201 (collectScores_cons v212102021 collectScores_nil))) rfl

theorem v212102000 : readBoardAux P2 6 (⟨N2, N1, N2, N1, N0, N2, N0, N0, N0⟩ : Grid) P1 = some (Z0, some M22) :=
  readBoardAux_step P2 5 (⟨N2, N1, N2, N1, N0, N2, N0, N0, N0⟩ : Grid) P1 [M11, M20, M21, M22] rfl rfl
    (collectScores_cons v212112000 (collectScores_cons v212102100 (collectScores_cons v212102010 (collectScores_cons v212102001 collectScores_nil)))) rfl

theorem t212111220 : readBoardAux P2 3 (⟨N2, N1, N2, N1, N1, N1, N2, N2, N0⟩ : Grid) P2 = some (ZM, none) :=
  rfl

theorem v212110221 : readBoardAux P2 3 (⟨N2, N1, N2, N1, N1, N0, N2, N2, N1⟩ : Grid) P2 = some (Z0, some M12) :=
  readBoardAux_step P2 2 (⟨N2, N1, N2, N1, N1, N0, N2, N2, N1⟩ : Grid) P2 [M12] rfl rfl
    (collectScores_cons t212112221 collectScores_nil) rfl

theorem v212110220 : readBoardAux P2 4 (⟨N2, N1, N2, N1, N1, N0, N2, N2, N0⟩ : Grid) P1 = some (ZM, some M12) :=
  readBoardAux_step P2 3 (⟨N2, N1, N2, N1, N1, N0, N2, N2, N0⟩ : Grid) P1 [M12, M22] rfl rfl
    (collectScores_cons t212111220 (collectScores_cons v212110221 collectScores_nil)) rfl

theorem t212111202 : readBoardAux P2 3 (⟨N2, N1, N2, N1, N1, N1, N2, N0, N2⟩ : Grid) P2 = some (ZM, none) :=
  rfl

theorem t212110212 : readBoardAux P2 3 (⟨N2, N1, N2, N1, N1, N0, N2, N1, N2⟩ : Grid) P2 = some (ZM, none) :=
  rfl

theorem v212110202 : readBoardAux P2 4 (⟨N2, N1, N2, N1, N1, N0, N2, N0, N2⟩ : Grid) P1 = some (ZM, some M12) :=
  readBoardAux_step P2 3 (⟨N2, N1, N2, N1, N1, N0, N2, N0, N2⟩ : Grid) P1 [M12, M21] rfl rfl
    (collectScores_cons t212111202 (collectScores_cons t212110212 collectScores_nil)) rfl

theorem v212110200 : readBoardAux P2 5 (⟨N2, N1, N2, N1, N1, N0, N2, N0, N0⟩ : Grid) P2 = some (ZM, some M12) :=
  readBoardAux_step P2 4 (⟨N2, N1, N2, N1, N1, N0, N2, N0, N0⟩ : Grid) P2 [M12, M21, M22] rfl rfl
    (collectScores_cons v212112200 (collectScores_cons v212110220 (collectScores_cons v212110202 collectScores_nil))) rfl

theorem v212101221 : readBoardAux P2 3 (⟨N2, N1, N2, N1, N0, N1, N2, N2, N1⟩ : Grid) P2 = some (ZP, some M11) :=
  readBoardAux_step P2 2 (⟨N2, N1, N2, N1, N0, N1, N2, N2, N1⟩ : Grid) P2 [M11] rfl rfl
    (collectScores_cons t212121221 collectScores_nil) rfl

theorem v212101220 : readBoardAux P2 4 (⟨N2, N1, N2, N1, N0, N1, N2, N2, N0⟩ : Grid) P1 = some (ZM, some M11) :=
  readBoardAux_step P2 3 (⟨N2, N1, N2, N1, N0, N1, N2, N2, N0⟩ : Grid) P1 [M11, M22] rfl rfl
    (collectScores_cons t212111220 (collectScores_cons v212101221 collectScores_nil)) rfl

theorem t212121212 : readBoardAux P2 2 (⟨N2, N1, N2, N1, N2, N1, N2, N1, N2⟩ : Grid) P1 = some (ZP, none) :=
  rfl

theorem v212101212 : readBoardAux P2 3 (⟨N2, N1, N2, N1, N0, N1, N2, N1, N2⟩ : Grid) P2 = some (ZP, some M11) :=
  readBoardAux_step P2 2 (⟨N2, N1, N2, N1, N0, N1, N2, N1, N2⟩ : Grid) P2 [M11] rfl rfl
    (collectScores_cons t212121212 collectScores_nil) rfl

theorem v212101202 : readBoardAux P2 4 (⟨N2, N1, N2, N1, N0, N1, N2, N0, N2⟩ : Grid) P1 = some (ZM, some M11) :=
  readBoardAux_step P2 3 (⟨N2, N1, N2, N1, N0, N1, N2, N0, N2⟩ : Grid) P1 [M11, M21] rfl rfl
    (collectScores_cons t212111202 (collectScores_cons v212101212 collectScores_nil)) rfl

theorem v212101200 : readBoardAux P2 5 (⟨N2, N1, N2, N1, N0, N1, N2, N0, N0⟩ : Grid) P2 = some (ZP, some M11) :=
  readBoardAux_step P2 4 (⟨N2, N1, N2, N1, N0, N1, N2, N0, N0⟩ : Grid) P2 [M11, M21, M22] rfl rfl
    (collectScores_cons t212121200 (collectScores_cons v212101220 (collectScores_cons v212101202 collectScores_nil))) rfl

theorem v212100212 : readBoardAux P2 4 (⟨N2, N1, N2, N1, N0, N0, N2, N1, N2⟩ : Grid) P1 = some (ZM, some M11) :=
  readBoardAux_step P2 3 (⟨N2, N1, N2, N1, N0, N0, N2, N1, N2⟩ : Grid) P1 [M11, M12] rfl rfl
    (collectScores_cons t212110212 (collectScores_cons v212101212 collectScores_nil)) rfl

theorem v212100210 : readBoardAux P2 5 (⟨N2, N1, N2, N1, N0, N0, N2, N1, N0⟩ : Grid) P2 = some (ZP, some M11) :=
  readBoardAux_step P2 4 (⟨N2, N1, N2, N1, N0, N0, N2, N1, N0⟩ : Grid) P2 [M11, M12, M22] rfl rfl
    (collectScores_cons t212120210 (collectScores_cons v212102210 (collectScores_cons v212100212 collectScores_nil))) rfl

theorem v212100221 : readBoardAux P2 4 (⟨N2, N1, N2, N1, N0, N0, N2, N2, N1⟩ : Grid) P1 = some (Z0, some M11) :=
  readBoardAux_step P2 3 (⟨N2, N1, N2, N1, N0, N0, N2, N2, N1⟩ : Grid) P1 [M11, M12] rfl rfl
    (collectScores_cons v212110221 (collectScores_cons v212101221 collectScores_nil)) rfl

theorem v212100201 : readBoardAux P2 5 (⟨N2, N1, N2, N1, N0, N0, N2, N0, N1⟩ : Grid) P2 = some (ZP, some M11) :=
  readBoardAux_step P2 4 (⟨N2, N1, N2, N1, N0, N0, N2, N0, N1⟩ : Grid) P2 [M11, M12, M21] rfl rfl
    (collectScores_cons t212120201 (collectScores_cons v212102201 (collectScores_cons v212100221 collectScores_nil))) rfl

theorem v212100200 : readBoardAux P2 6 (⟨N2, N1, N2, N1, N0, N0, N2, N0, N0⟩ : Grid) P1 = some (ZM, some M11) :=
  readBoardAux_step P2 5 (⟨N2, N1, N2, N1, N0, N0, N2, N0, N0⟩ : Grid) P1 [M11, M12, M21, M22] rfl rfl
    (collectScores_cons v212110200 (collectScores_cons v212101200 (collectScores_cons v212100210 (collectScores_cons v212100201 collectScores_nil)))) rfl

theorem t212111022 : readBoardAux P2 3 (⟨N2, N1, N2, N1, N1, N1, N0, N2, N2⟩ : Grid) P2 = some (ZM, none) :=
  rfl

theorem v212110122 : readBoardAux P2 3 (⟨N2, N1, N2, N1, N1, N0, N1, N2, N2⟩ : Grid) P2 = some (ZP, some M12) :=
  readBoardAux_step P2 2 (⟨N2, N1, N2, N1, N1, N0, N1, N2, N2⟩ : Grid) P2 [M12] rfl rfl
    (collectScores_cons t212112122 collectScores_nil) rfl

theorem v212110022 : readBoardAux P2 4 (⟨N2, N1, N2, N1, N1, N0, N0, N2, N2⟩ : Grid) P1 = some (ZM, some M12) :=
  readBoardAux_step P2 3 (⟨N2, N1, N2, N1, N1, N0, N0, N2, N2⟩ : Grid) P1 [M12, M20] rfl rfl
    (collectScores_cons t212111022 (collectScores_cons v212110122 collectScores_nil)) rfl

theorem v212110020 : readBoardAux P2 5 (⟨N2, N1, N2, N1, N1, N0, N0, N2, N0⟩ : Grid) P2 = some (Z0, some M12) :=
  readBoardAux_step P2 4 (⟨N2, N1, N2, N1, N1, N0, N0, N2, N0⟩ : Grid) P2 [M12, M20, M22] rfl rfl
    (collectScores_cons v212112020 (collectScores_cons v212110220 (collectScores_cons v212110022 collectScores_nil))) rfl

theorem v212101122 : readBoardAux P2 3 (⟨N2, N1, N2, N1, N0, N1, N1, N2, N2⟩ : Grid) P2 = some (ZP, some M11) :=
  readBoardAux_step P2 2 (⟨N2, N1, N2, N1, N0, N1, N1, N2, N2⟩ : Grid) P2 [M11] rfl rfl
    (collectScores_cons t212121122 collectScores_nil) rfl

theorem v212101022 : readBoardAux P2 4 (⟨N2, N1, N2, N1, N0, N1, N0, N2, N2⟩ : Grid) P1 = some (ZM, some M11) :=
  readBoardAux_step P2 3 (⟨N2, N1, N2, N1, N0, N1, N0, N2, N2⟩ : Grid) P1 [M11, M20] rfl rfl
    (collectScores_cons t212111022 (collectScores_cons v212101122 collectScores_nil)) rfl

theorem v212101020 : readBoardAux P2 5 (⟨N2, N1, N2, N1, N0, N1, N0, N2, N0⟩ : Grid) P2 = some (ZP, some M11) :=
  readBoardAux_step P2 4 (⟨N2, N1, N2, N1, N0, N1, N0, N2, N0⟩ : Grid) P2 [M11, M20, M22] rfl rfl
    (collectScores_cons v212121020 (collectScores_cons v212101220 (collectScores_cons v212101022 collectScores_nil))) rfl

theorem v212100122 : readBoardAux P2 4 (⟨N2, N1, N2, N1, N0, N0, N1, N2, N2⟩ : Grid) P1 = some (ZP, some M11) :=
  readBoardAux_step P2 3 (⟨N2, N1, N2, N1, N0, N0, N1, N2, N2⟩ : Grid) P1 [M11, M12] rfl rfl
    (collectScores_cons v212110122 (collectScores_cons v212101122 collectScores_nil)) rfl

theorem v212100120 : readBoardAux P2 5 (⟨N2, N1, N2, N1, N0, N0, N1, N2, N0⟩ : Grid) P2 = some (ZP, some M22) :=
  readBoardAux_step P2 4 (⟨N2, N1, N2, N1, N0, N0, N1, N2, N0⟩ : Grid) P2 [M11, M12, M22] rfl rfl
    (collectScores_cons v212120120 (collectScores_cons v212102120 (collectScores_cons v212100122 collectScores_nil))) rfl

theorem v212100021 : readBoardAux P2 5 (⟨N2, N1, N2, N1, N0, N0, N0, N2, N1⟩ : Grid) P2 = some (Z0, some M11) :=
  readBoardAux_step P2 4 (⟨N2, N1, N2, N1, N0, N0, N0, N2, N1⟩ : Grid) P2 [M11, M12, M20] rfl rfl
    (collectScores_cons v212120021 (collectScores_cons v212102021 (collectScores_cons v212100221 collectScores_nil))) rfl

theorem v212100020 : readBoardAux P2 6 (⟨N2, N1, N2, N1, N0, N0, N0, N2, N0⟩ : Grid) P1 = some (Z0, some M11) :=
  readBoardAux_step P2 5 (⟨N2, N1, N2, N1, N0, N0, N0, N2, N0⟩ : Grid) P1 [M11, M12, M20, M22] rfl rfl
    (collectScores_cons v212110020 (collectScores_cons v212101020 (collectScores_cons v212100120 (collectScores_cons v212100021 collectScores_nil)))) rfl

theorem v212110002 : readBoardAux P2 5 (⟨N2, N1, N2, N1, N1, N0, N0, N0, N2⟩ : Grid) P2 = some (ZP, some M12) :=
  readBoardAux_step P2 4 (⟨N2, N1, N2, N1, N1, N0, N0, N0, N2⟩ : Grid) P2 [M12, M20, M21] rfl rfl
    (collectScores_cons t212112002 (collectScores_cons v212110202 (collectScores_cons v212110022 collectScores_nil))) rfl

theorem v212101002 : readBoardAux P2 5 (⟨N2, N1, N2, N1, N0, N1, N0, N0, N2⟩ : Grid) P2 = some (ZP, some M11) :=
  readBoardAux_step P2 4 (⟨N2, N1, N2, N1, N0, N1, N0, N0, N2⟩ : Grid) P2 [M11, M20, M21] rfl rfl
    (collectScores_cons t212121002 (collectScores_cons v212101202 (collectScores_cons v212101022 collectScores_nil))) rfl

theorem v212100102 : readBoardAux P2 5 (⟨N2, N1, N2, N1, N0, N0, N1, N0, N2⟩ : Grid) P2 = some (ZP, some M11) :=
  readBoardAux_step P2 4 (⟨N2, N1, N2, N1, N0, N0, N1, N0, N2⟩ : Grid) P2 [M11, M12, M21] rfl rfl
    (collectScores_cons t212120102 (collectScores_cons t212102102 (collectScores_cons v212100122 collectScores_nil))) rfl

theorem v212100012 : readBoardAux P2 5 (⟨N2, N1, N2, N1, N0, N0, N0, N1, N2⟩ : Grid) P2 = some (ZP, some M11) :=
  readBoardAux_step P2 4 (⟨N2, N1, N2, N1, N0, N0, N0, N1, N2⟩ : Grid) P2 [M11, M12, M20] rfl rfl
    (collectScores_cons t212120012 (collectScores_cons t212102012 (collectScores_cons v212100212 collectScores_nil))) rfl

theorem v212100002 : readBoardAux P2 6 (⟨N2, N1, N2, N1, N0, N0, N0, N0, N2⟩ : Grid) P1 = some (ZP, some M11) :=
  readBoardAux_step P2 5 (⟨N2, N1, N2, N1, N0, N0, N0, N0, N2⟩ : Grid) P1 [M11, M12, M20, M21] rfl rfl
    (collectScores_cons v212110002 (collectScores_cons v212101002 (collectScores_cons v212100102 (collectScores_cons v212100012 collectScores_nil)))) rfl

theorem v212100000 : readBoardAux P2 7 (⟨N2, N1, N2, N1, N0, N0, N0, N0, N0⟩ : Grid) P2 = some (ZP, some M11) :=
  readBoardAux_step P2 6 (⟨N2, N1, N2, N1, N0, N0, N0, N0, N0⟩ : Grid) P2 [M11, M12, M20, M21, M22] rfl rfl
    (collectScores_cons v212120000 (collectScores_cons v212102000 (collectScores_cons v212100200 (collectScores_cons v212100020 (collectScores_cons v212100002 collectScores_nil))))) rfl

theorem t212211200 : readBoardAux P2 4 (⟨N2, N1, N2, N2, N1, N1, N2, N0, N0⟩ : Grid) P1 = some (ZP, none) :=
  rfl

theorem t212211122 : readBoardAux P2 2 (⟨N2, N1, N2, N2, N1, N1, N1, N2, N2⟩ : Grid) P1 = some (Z0, none) :=
  rfl

theorem v212211120 : readBoardAux P2 3 (⟨N2, N1, N2, N2, N1, N1, N1, N2, N0⟩ : Grid) P2 = some (Z0, some M22) :=
  readBoardAux_step P2 2 (⟨N2, N1, N2, N2, N1, N1, N1, N2, N0⟩ : Grid) P2 [M22] rfl rfl
    (collectScores_cons t212211122 collectScores_nil) rfl

theorem t212211221 : readBoardAux P2 2 (⟨N2, N1, N2, N2, N1, N1, N2, N2, N1⟩ : Grid) P1 = some (ZP, none) :=
  rfl

theorem v212211021 : readBoardAux P2 3 (⟨N2, N1, N2, N2, N1, N1, N0, N2, N1⟩ : Grid) P2 = some (ZP, some M20) :=
  readBoardAux_step P2 2 (⟨N2, N1, N2, N2, N1, N1, N0, N2, N1⟩ : Grid) P2 [M20] rfl rfl
    (collectScores_cons t212211221 collectScores_nil) rfl

theorem v212211020 : readBoardAux P2 4 (⟨N2, N1, N2, N2, N1, N1, N0, N2, N0⟩ : Grid) P1 = some (Z0, some M20) :=
  readBoardAux_step P2 3 (⟨N2, N1, N2, N2, N1, N1, N0, N2, N0⟩ : Grid) P1 [M20, M22] rfl rfl
    (collectScores_cons v212211120 (collectScores_cons v212211021 collectScores_nil)) rfl

theorem v212211102 : readBoardAux P2 3 (⟨N2, N1, N2, N2, N1, N1, N1, N0, N2⟩ : Grid) P2 = some (Z0, some M21) :=
  readBoardAux_step P2 2 (⟨N2, N1, N2, N2, N1, N1, N1, N0, N2⟩ : Grid) P2 [M21] rfl rfl
    (collectScores_cons t212211122 collectScores_nil) rfl

theorem t212211012 : readBoardAux P2 3 (⟨N2, N1, N2, N2, N1, N1, N0, N1, N2⟩ : Grid) P2 = some (ZM, none) :=
  rfl

theorem v212211002 : readBoardAux P2 4 (⟨N2, N1, N2, N2, N1, N1, N0, N0, N2⟩ : Grid) P1 = some (ZM, some M21) :=
  readBoardAux_step P2 3 (⟨N2, N1, N2, N2, N1, N1, N0, N0, N2⟩ : Grid) P1 [M20, M21] rfl rfl
    (collectScores_cons v212211102 (collectScores_cons t212211012 collectScores_nil)) rfl

theorem v212211000 : readBoardAux P2 5 (⟨N2, N1, N2, N2, N1, N1, N0, N0, N0⟩ : Grid) P2 = some (ZP, some M20) :=
  readBoardAux_step P2 4 (⟨N2, N1, N2, N2, N1, N1, N0, N0, N0⟩ : Grid) P2 [M20, M21, M22] rfl rfl
    (collectScores_cons t212211200 (collectScores_cons v212211020 (collectScores_cons v212211002 collectScores_nil))) rfl

theorem t212212110 : readBoardAux P2 3 (⟨N2, N1, N2, N2, N1, N2, N1, N1, N0⟩ : Grid) P2 = some (ZM, none) :=
  rfl

theorem t212212121 : readBoardAux P2 2 (⟨N2, N1, N2, N2, N1, N2, N1, N2, N1⟩ : Grid) P1 = some (Z0, none) :=
  rfl

theorem v212212101 : readBoardAux P2 3 (⟨N2, N1, N2, N2, N1, N2, N1, N0, N1⟩ : Grid) P2 = some (Z0, some M21) :=
  readBoardAux_step P2 2 (⟨N2, N1, N2, N2, N1, N2, N1, N0, N1⟩ : Grid) P2 [M21] rfl rfl
    (collectScores_cons t212212121 collectScores_nil) rfl

theorem v212212100 : readBoardAux P2 4 (⟨N2, N1, N2, N2, N1, N2, N1, N0, N0⟩ : Grid) P1 = some (ZM, some M21) :=
  readBoardAux_step P2 3 (⟨N2, N1, N2, N2, N1, N2, N1, N0, N0⟩ : Grid) P1 [M21, M22] rfl rfl
    (collectScores_cons t212212110 (collectScores_cons v212212101 collectScores_nil)) rfl

theorem v212210121 : readBoardAux P2 3 (⟨N2, N1, N2, N2, N1, N0, N1, N2, N1⟩ : Grid) P2 = some (Z0, some M12) :=
  readBoardAux_step P2 2 (⟨N2, N1, N2, N2, N1, N0, N1, N2, N1⟩ : Grid) P2 [M12] rfl rfl
    (collectScores_cons t212212121 collectScores_nil) rfl

theorem v212210120 : readBoardAux P2 4 (⟨N2, N1, N2, N2, N1, N0, N1, N2, N0⟩ : Grid) P1 = some (Z0, some M12) :=
  readBoardAux_step P2 3 (⟨N2, N1, N2, N2, N1, N0, N1, N2, N0⟩ : Grid) P1 [M12, M22] rfl rfl
    (collectScores_cons v212211120 (collectScores_cons v212210121 collectScores_nil)) rfl

theorem t212210112 : readBoardAux P2 3 (⟨N2, N1, N2, N2, N1, N0, N1, N1, N2⟩ : Grid) P2 = some (ZM, none) :=
  rfl

theorem v212210102 : readBoardAux P2 4 (⟨N2, N1, N2, N2, N1, N0, N1, N0, N2⟩ : Grid) P1 = some (ZM, some M21) :=
  readBoardAux_step P2 3 (⟨N2, N1, N2, N2, N1, N0, N1, N0, N2⟩ : Grid) P1 [M12, M21] rfl rfl
    (collectScores_cons v212211102 (collectScores_cons t212210112 collectScores_nil)) rfl

theorem v212210100 : readBoardAux P2 5 (⟨N2, N1, N2, N2, N1, N0, N1, N0, N0⟩ : Grid) P2 = some (Z0, some M21) :=
  readBoardAux_step P2 4 (⟨N2, N1, N2, N2, N1, N0, N1, N0, N0⟩ : Grid) P2 [M12, M21, M22] rfl rfl
    (collectScores_cons v212212100 (collectScores_cons v212210120 (collectScores_cons v212210102 collectScores_nil))) rfl

theorem t212210010 : readBoardAux P2 5 (⟨N2, N1, N2, N2, N1, N0, N0, N1, N0⟩ : Grid) P2 = some (ZM, none) :=
  rfl

theorem t212212011 : readBoardAux P2 3 (⟨N2, N1, N2, N2, N1, N2, N0, N1, N1⟩ : Grid) P2 = some (ZM, none) :=
  rfl

theorem v212212001 : readBoardAux P2 4 (⟨N2, N1, N2, N2, N1, N2, N0, N0, N1⟩ : Grid) P1 = some (ZM, some M21) :=
  readBoardAux_step P2 3 (⟨N2, N1, N2, N2, N1, N2, N0, N0, N1⟩ : Grid) P1 [M20, M21] rfl rfl
    (collectScores_cons v212212101 (collectScores_cons t212212011 collectScores_nil)) rfl

theorem t212210201 : readBoardAux P2 4 (⟨N2, N1, N2, N2, N1, N0, N2, N0, N1⟩ : Grid) P1 = some (ZP, none) :=
  rfl

theorem v212210021 : readBoardAux P2 4 (⟨N2, N1, N2, N2, N1, N0, N0, N2, N1⟩ : Grid) P1 = some (Z0, some M20) :=
  readBoardAux_step P2 3 (⟨N2, N1, N2, N2, N1, N0, N0, N2, N1⟩ : Grid) P1 [M12, M20] rfl rfl
    (collectScores_cons v212211021 (collectScores_cons v212210121 collectScores_nil)) rfl

theorem v212210001 : readBoardAux P2 5 (⟨N2, N1, N2, N2, N1, N0, N0, N0, N1⟩ : Grid) P2 = some (ZP, some M20) :=
  readBoardAux_step P2 4 (⟨N2, N1, N2, N2, N1, N0, N0, N0, N1⟩ : Grid) P2 [M12, M20, M21] rfl rfl
    (collectScores_cons v212212001 (collectScores_cons t212210201 (collectScores_cons v212210021 collectScores_nil))) rfl

theorem v212210000 : readBoardAux P2 6 (⟨N2, N1, N2, N2, N1, N0, N0, N0, N0⟩ : Grid) P1 = some (ZM, some M21) :=
  readBoardAux_step P2 5 (⟨N2, N1, N2, N2, N1, N0, N0, N0, N0⟩ : Grid) P1 [M12, M20, M21, M22] rfl rfl
    (collectScores_cons v212211000 (collectScores_cons v212210100 (collectScores_cons t212210010 (collectScores_cons v212210001 collectScores_nil)))) rfl

theorem v212012121 : readBoardAux P2 3 (⟨N2, N1, N2, N0, N1, N2, N1, N2, N1⟩ : Grid) P2 = some (Z0, some M10) :=
  readBoardAux_step P2 2 (⟨N2, N1, N2, N0, N1, N2, N1, N2, N1⟩ : Grid) P2 [M10] rfl rfl
    (collectScores_cons t212212121 collectScores_nil) rfl

theorem v212012120 : readBoardAux P2 4 (⟨N2, N1, N2, N0, N1, N2, N1, N2, N0⟩ : Grid) P1 = some (Z0, some M22) :=
  readBoardAux_step P2 3 (⟨N2, N1, N2, N0, N1, N2, N1, N2, N0⟩ : Grid) P1 [M10, M22] rfl rfl
    (collectScores_cons v212112120 (collectScores_cons v212012121 collectScores_nil)) rfl

theorem t212012102 : readBoardAux P2 4 (⟨N2, N1, N2, N0, N1, N2, N1, N0, N2⟩ : Grid) P1 = some (ZP, none) :=
  rfl

theorem v212012100 : readBoardAux P2 5 (⟨N2, N1, N2, N0, N1, N2, N1, N0, N0⟩ : Grid) P2 = some (ZP, some M22) :=
  readBoardAux_step P2 4 (⟨N2, N1, N2, N0, N1, N2, N1, N0, N0⟩ : Grid) P2 [M10, M21, M22] rfl rfl
    (collectScores_cons v212212100 (collectScores_cons v212012120 (collectScores_cons t212012102 collectScores_nil))) rfl

theorem t212012010 : readBoardAux P2 5 (⟨N2, N1, N2, N0, N1, N2, N0, N1, N0⟩ : Grid) P2 = some (ZM, none) :=
  rfl

theorem t212012211 : readBoardAux P2 3 (⟨N2, N1, N2, N0, N1, N2, N2, N1, N1⟩ : Grid) P2 = some (ZM, none) :=
  rfl

theorem v212012201 : readBoardAux P2 4 (⟨N2, N1, N2, N0, N1, N2, N2, N0, N1⟩ : Grid) P1 = some (ZM, some M21) :=
  readBoardAux_step P2 3 (⟨N2, N1, N2, N0, N1, N2, N2, N0, N1⟩ : Grid) P1 [M10, M21] rfl rfl
    (collectScores_cons v212112201 (collectScores_cons t212012211 collectScores_nil)) rfl

theorem v212012021 : readBoardAux P2 4 (⟨N2, N1, N2, N0, N1, N2, N0, N2, N1⟩ : Grid) P1 = some (Z0, some M10) :=
  readBoardAux_step P2 3 (⟨N2, N1, N2, N0, N1, N2, N0, N2, N1⟩ : Grid) P1 [M10, M20] rfl rfl
    (collectScores_cons v212112021 (collectScores_cons v212012121 collectScores_nil)) rfl

theorem v212012001 : readBoardAux P2 5 (⟨N2, N1, N2, N0, N1, N2, N0, N0, N1⟩ : Grid) P2 = some (Z0, some M21) :=
  readBoardAux_step P2 4 (⟨N2, N1, N2, N0, N1, N2, N0, N0, N1⟩ : Grid) P2 [M10, M20, M21] rfl rfl
    (collectScores_cons v212212001 (collectScores_cons v212012201 (collectScores_cons v212012021 collectScores_nil))) rfl

theorem v212012000 : readBoardAux P2 6 (⟨N2, N1, N2, N0, N1, N2, N0, N0, N0⟩ : Grid) P1 = some (ZM, some M21) :=
  readBoardAux_step P2 5 (⟨N2, N1, N2, N0, N1, N2, N0, N0, N0⟩ : Grid) P1 [M10, M20, M21, M22] rfl rfl
    (collectScores_cons v212112000 (collectScores_cons v212012100 (collectScores_cons t212012010 (collectScores_cons v212012001 collectScores_nil)))) rfl

theorem v212011221 : readBoardAux P2 3 (⟨N2, N1, N2, N0, N1, N1, N2, N2, N1⟩ : Grid) P2 = some (ZP, some M10) :=
  readBoardAux_step P2 2 (⟨N2, N1, N2, N0, N1, N1, N2, N2, N1⟩ : Grid) P2 [M10] rfl rfl
    (collectScores_cons t212211221 collectScores_nil) rfl

theorem v212011220 : readBoardAux P2 4 (⟨N2, N1, N2, N0, N1, N1, N2, N2, N0⟩ : Grid) P1 = some (ZM, some M10) :=
  readBoardAux_step P2 3 (⟨N2, N1, N2, N0, N1, N1, N2, N2, N0⟩ : Grid) P1 [M10, M22] rfl rfl
    (collectScores_cons t212111220 (collectScores_cons v212011221 collectScores_nil)) rfl

theorem t212011212 : readBoardAux P2 3 (⟨N2, N1, N2, N0, N1, N1, N2, N1, N2⟩ : Grid) P2 = some (ZM, none) :=
  rfl

theorem v212011202 : readBoardAux P2 4 (⟨N2, N1, N2, N0, N1, N1, N2, N0, N2⟩ : Grid) P1 = some (ZM, some M10) :=
  readBoardAux_step P2 3 (⟨N2, N1, N2, N0, N1, N1, N2, N0, N2⟩ : Grid) P1 [M10, M21] rfl rfl
    (collectScores_cons t212111202 (collectScores_cons t212011212 collectScores_nil)) rfl

theorem v212011200 : readBoardAux P2 5 (⟨N2, N1, N2, N0, N1, N1, N2, N0, N0⟩ : Grid) P2 = some (ZP, some M10) :=
  readBoardAux_step P2 4 (⟨N2, N1, N2, N0, N1, N1, N2, N0, N0⟩ : Grid) P2 [M10, M21, M22] rfl rfl
    (collectScores_cons t212211200 (collectScores_cons v212011220 (collectScores_cons v212011202 collectScores_nil))) rfl

theorem t212010210 : readBoardAux P2 5 (⟨N2, N1, N2, N0, N1, N0, N2, N1, N0⟩ : Grid) P2 = some (ZM, none) :=
  rfl

theorem v212010221 : readBoardAux P2 4 (⟨N2, N1, N2, N0, N1, N0, N2, N2, N1⟩ : Grid) P1 = some (Z0, some M10) :=
  readBoardAux_step P2 3 (⟨N2, N1, N2, N0, N1, N0, N2, N2, N1⟩ : Grid) P1 [M10, M12] rfl rfl
    (collectScores_cons v212110221 (collectScores_cons v212011221 collectScores_nil)) rfl

theorem v212010201 : readBoardAux P2 5 (⟨N2, N1, N2, N0, N1, N0, N2, N0, N1⟩ : Grid) P2 = some (ZP, some M10) :=
  readBoardAux_step P2 4 (⟨N2, N1, N2, N0, N1, N0, N2, N0, N1⟩ : Grid) P2 [M10, M12, M21] rfl rfl
    (collectScores_cons t212210201 (collectScores_cons v212012201 (collectScores_cons v212010221 collectScores_nil))) rfl

theorem v212010200 : readBoardAux P2 6 (⟨N2, N1, N2, N0, N1, N0, N2, N0, N0⟩ : Grid) P1 = some (ZM, some M10) :=
  readBoardAux_step P2 5 (⟨N2, N1, N2, N0, N1, N0, N2, N0, N0⟩ : Grid) P1 [M10, M12, M21, M22] rfl rfl
    (collectScores_cons v212110200 (collectScores_cons v212011200 (collectScores_cons t212010210 (collectScores_cons v212010201 collectScores_nil)))) rfl

theorem v212011122 : readBoardAux P2 3 (⟨N2, N1, N2, N0, N1, N1, N1, N2, N2⟩ : Grid) P2 = some (Z0, some M10) :=
  readBoardAux_step P2 2 (⟨N2, N1, N2, N0, N1, N1, N1, N2, N2⟩ : Grid) P2 [M10] rfl rfl
    (collectScores_cons t212211122 collectScores_nil) rfl

theorem v212011022 : readBoardAux P2 4 (⟨N2, N1, N2, N0, N1, N1, N0, N2, N2⟩ : Grid) P1 = some (ZM, some M10) :=
  readBoardAux_step P2 3 (⟨N2, N1, N2, N0, N1, N1, N0, N2, N2⟩ : Grid) P1 [M10, M20] rfl rfl
    (collectScores_cons t212111022 (collectScores_cons v212011122 collectScores_nil)) rfl

theorem v212011020 : readBoardAux P2 5 (⟨N2, N1, N2, N0, N1, N1, N0, N2, N0⟩ : Grid) P2 = some (Z0, some M10) :=
  readBoardAux_step P2 4 (⟨N2, N1, N2, N0, N1, N1, N0, N2, N0⟩ : Grid) P2 [M10, M20, M22] rfl rfl
    (collectScores_cons v212211020 (collectScores_cons v212011220 (collectScores_cons v212011022 collectScores_nil))) rfl

theorem v212010122 : readBoardAux P2 4 (⟨N2, N1, N2, N0, N1, N0, N1, N2, N2⟩ : Grid) P1 = some (Z0, some M12) :=
  readBoardAux_step P2 3 (⟨N2, N1, N2, N0, N1, N0, N1, N2, N2⟩ : Grid) P1 [M10, M12] rfl rfl
    (collectScores_cons v212110122 (collectScores_cons v212011122 collectScores_nil)) rfl

theorem v212010120 : readBoardAux P2 5 (⟨N2, N1, N2, N0, N1, N0, N1, N2, N0⟩ : Grid) P2 = some (Z0, some M10) :=
  readBoardAux_step P2 4 (⟨N2, N1, N2, N0, N1, N0, N1, N2, N0⟩ : Grid) P2 [M10, M12, M22] rfl rfl
    (collectScores_cons v212210120 (collectScores_cons v212012120 (collectScores_cons v212010122 collectScores_nil))) rfl

theorem v212010021 : readBoardAux P2 5 (⟨N2, N1, N2, N0, N1, N0, N0, N2, N1⟩ : Grid) P2 = some (Z0, some M10) :=
  readBoardAux_step P2 4 (⟨N2, N1, N2, N0, N1, N0, N0, N2, N1⟩ : Grid) P2 [M10, M12, M20] rfl rfl
    (collectScores_cons v212210021 (collectScores_cons v212012021 (collectScores_cons v212010221 collectScores_nil))) rfl

theorem v212010020 : readBoardAux P2 6 (⟨N2, N1, N2, N0, N1, N0, N0, N2, N0⟩ : Grid) P1 = some (Z0, some M10) :=
  readBoardAux_step P2 5 (⟨N2, N1, N2, N0, N1, N0, N0, N2, N0⟩ : Grid) P1 [M10, M12, M20, M22] rfl rfl
    (collectScores_cons v212110020 (collectScores_cons v212011020 (collectScores_cons v212010120 (collectScores_cons v212010021 collectScores_nil)))) rfl

theorem v212011002 : readBoardAux P2 5 (⟨N2, N1, N2, N0, N1, N1, N0, N0, N2⟩ : Grid) P2 = some (ZM, some M10) :=
  readBoardAux_step P2 4 (⟨N2, N1, N2, N0, N1, N1, N0, N0, N2⟩ : Grid) P2 [M10, M20, M21] rfl rfl
    (collectScores_cons v212211002 (collectScores_cons v212011202 (collectScores_cons v212011022 collectScores_nil))) rfl

theorem v212010102 : readBoardAux P2 5 (⟨N2, N1, N2, N0, N1, N0, N1, N0, N2⟩ : Grid) P2 = some (ZP, some M12) :=
  readBoardAux_step P2 4 (⟨N2, N1, N2, N0, N1, N0, N1, N0, N2⟩ : Grid) P2 [M10, M12, M21] rfl rfl
    (collectScores_cons v212210102 (collectScores_cons t212012102 (collectScores_cons v212010122 collectScores_nil))) rfl

theorem t212010012 : readBoardAux P2 5 (⟨N2, N1, N2, N0, N1, N0, N0, N1, N2⟩ : Grid) P2 = some (ZM, none) :=
  rfl

theorem v212010002 : readBoardAux P2 6 (⟨N2, N1, N2, N0, N1, N0, N0, N0, N2⟩ : Grid) P1 = some (ZM, some M12) :=
  readBoardAux_step P2 5 (⟨N2, N1, N2, N0, N1, N0, N0, N0, N2⟩ : Grid) P1 [M10, M12, M20, M21] rfl rfl
    (collectScores_cons v212110002 (collectScores_cons v212011002 (collectScores_cons v212010102 (collectScores_cons t212010012 collectScores_nil)))) rfl

theorem v212010000 : readBoardAux P2 7 (⟨N2, N1, N2, N0, N1, N0, N0, N0, N0⟩ : Grid) P2 = some (Z0, some M21) :=
  readBoardAux_step P2 6 (⟨N2, N1, N2, N0, N1, N0, N0, N0, N0⟩ : Grid) P2 [M10, M12, M20, M21, M22] rfl rfl
    (collectScores_cons v212210000 (collectScores_cons v212012000 (collectScores_cons v212010200 (collectScores_cons v212010020 (collectScores_cons v212010002 collectScores_nil))))) rfl

theorem t212221112 : readBoardAux P2 2 (⟨N2, N1, N2, N2, N2, N1, N1, N1, N2⟩ : Grid) P1 = some (ZP, none) :=
  rfl

theorem v212221110 : readBoardAux P2 3 (⟨N2, N1, N2, N2, N2, N1, N1, N1, N0⟩ : Grid) P2 = some (ZP, some M22) :=
  readBoardAux_step P2 2 (⟨N2, N1, N2, N2, N2, N1, N1, N1, N0⟩ : Grid) P2 [M22] rfl rfl
    (collectScores_cons t212221112 collectScores_nil) rfl

theorem t212221121 : readBoardAux P2 2 (⟨N2, N1, N2, N2, N2, N1, N1, N2, N1⟩ : Grid) P1 = some (Z0, none) :=
  rfl

theorem v212221101 : readBoardAux P2 3 (⟨N2, N1, N2, N2, N2, N1, N1, N0, N1⟩ : Grid) P2 = some (Z0, some M21) :=
  readBoardAux_step P2 2 (⟨N2, N1, N2, N2, N2, N1, N1, N0, N1⟩ : Grid) P2 [M21] rfl rfl
    (collectScores_cons t212221121 collectScores_nil) rfl

theorem v212221100 : readBoardAux P2 4 (⟨N2, N1, N2, N2, N2, N1, N1, N0, N0⟩ : Grid) P1 = some (Z0, some M22) :=
  readBoardAux_step P2 3 (⟨N2, N1, N2, N2, N2, N1, N1, N0, N0⟩ : Grid) P1 [M21, M22] rfl rfl
    (collectScores_cons v212221110 (collectScores_cons v212221101 collectScores_nil)) rfl

theorem v212201121 : readBoardAux P2 3 (⟨N2, N1, N2, N2, N0, N1, N1, N2, N1⟩ : Grid) P2 = some (Z0, some M11) :=
  readBoardAux_step P2 2 (⟨N2, N1, N2, N2, N0, N1, N1, N2, N1⟩ : Grid) P2 [M11] rfl rfl
    (collectScores_cons t212221121 collectScores_nil) rfl

theorem v212201120 : readBoardAux P2 4 (⟨N2, N1, N2, N2, N0, N1, N1, N2, N0⟩ : Grid) P1 = some (Z0, some M11) :=
  readBoardAux_step P2 3 (⟨N2, N1, N2, N2, N0, N1, N1, N2, N0⟩ : Grid) P1 [M11, M22] rfl rfl
    (collectScores_cons v212211120 (collectScores_cons v212201121 collectScores_nil)) rfl

theorem v212201112 : readBoardAux P2 3 (⟨N2, N1, N2, N2, N0, N1, N1, N1, N2⟩ : Grid) P2 = some (ZP, some M11) :=
  readBoardAux_step P2 2 (⟨N2, N1, N2, N2, N0, N1, N1, N1, N2⟩ : Grid) P2 [M11] rfl rfl
    (collectScores_cons t212221112 collectScores_nil) rfl

theorem v212201102 : readBoardAux P2 4 (⟨N2, N1, N2, N2, N0, N1, N1, N0, N2⟩ : Grid) P1 = some (Z0, some M11) :=
  readBoardAux_step P2 3 (⟨N2, N1, N2, N2, N0, N1, N1, N0, N2⟩ : Grid) P1 [M11, M21] rfl rfl
    (collectScores_cons v212211102 (collectScores_cons v212201112 collectScores_nil)) rfl

theorem v212201100 : readBoardAux P2 5 (⟨N2, N1, N2, N2, N0, N1, N1, N0, N0⟩ : Grid) P2 = some (Z0, some M11) :=
  readBoardAux_step P2 4 (⟨N2, N1, N2, N2, N0, N1, N1, N0, N0⟩ : Grid) P2 [M11, M21, M22] rfl rfl
    (collectScores_cons v212221100 (collectScores_cons v212201120 (collectScores_cons v212201102 collectScores_nil))) rfl

theorem t212221211 : readBoardAux P2 2 (⟨N2, N1, N2, N2, N2, N1, N2, N1, N1⟩ : Grid) P1 = some (ZP, none) :=
  rfl

theorem v212221011 : readBoardAux P2 3 (⟨N2, N1, N2, N2, N2, N1, N0, N1, N1⟩ : Grid) P2 = some (ZP, some M20) :=
  readBoardAux_step P2 2 (⟨N2, N1, N2, N2, N2, N1, N0, N1, N1⟩ : Grid) P2 [M20] rfl rfl
    (collectScores_cons t212221211 collectScores_nil) rfl

theorem v212221010 : readBoardAux P2 4 (⟨N2, N1, N2, N2, N2, N1, N0, N1, N0⟩ : Grid) P1 = some (ZP, some M20) :=
  readBoardAux_step P2 3 (⟨N2, N1, N2, N2, N2, N1, N0, N1, N0⟩ : Grid) P1 [M20, M22] rfl rfl
    (collectScores_cons v212221110 (collectScores_cons v212221011 collectScores_nil)) rfl

theorem t212201210 : readBoardAux P2 4 (⟨N2, N1, N2, N2, N0, N1, N2, N1, N0⟩ : Grid) P1 = some (ZP, none) :=
  rfl

theorem v212201012 : readBoardAux P2 4 (⟨N2, N1, N2, N2, N0, N1, N0, N1, N2⟩ : Grid) P1 = some (ZM, some M11) :=
  readBoardAux_step P2 3 (⟨N2, N1, N2, N2, N0, N1, N0, N1, N2⟩ : Grid) P1 [M11, M20] rfl rfl
    (collectScores_cons t212211012 (collectScores_cons v212201112 collectScores_nil)) rfl

theorem v212201010 : readBoardAux P2 5 (⟨N2, N1, N2, N2, N0, N1, N0, N1, N0⟩ : Grid) P2 = some (ZP, some M11) :=
  readBoardAux_step P2 4 (⟨N2, N1, N2, N2, N0, N1, N0, N1, N0⟩ : Grid) P2 [M11, M20, M22] rfl rfl
    (collectScores_cons v212221010 (collectScores_cons t212201210 (collectScores_cons v212201012 collectScores_nil))) rfl

theorem v212221001 : readBoardAux P2 4 (⟨N2, N1, N2, N2, N2, N1, N0, N0, N1⟩ : Grid) P1 = some (Z0, some M20) :=
  readBoardAux_step P2 3 (⟨N2, N1, N2, N2, N2, N1, N0, N0, N1⟩ : Grid) P1 [M20, M21] rfl rfl
    (collectScores_cons v212221101 (collectScores_cons v212221011 collectScores_nil)) rfl

theorem t212201201 : readBoardAux P2 4 (⟨N2, N1, N2, N2, N0, N1, N2, N0, N1⟩ : Grid) P1 = some (ZP, none) :=
  rfl

theorem v212201021 : readBoardAux P2 4 (⟨N2, N1, N2, N2, N0, N1, N0, N2, N1⟩ : Grid) P1 = some (Z0, some M20) :=
  readBoardAux_step P2 3 (⟨N2, N1, N2, N2, N0, N1, N0, N2, N1⟩ : Grid) P1 [M11, M20] rfl rfl
    (collectScores_cons v212211021 (collectScores_cons v212201121 collectScores_nil)) rfl

theorem v212201001 : readBoardAux P2 5 (⟨N2, N1, N2, N2, N0, N1, N0, N0, N1⟩ : Grid) P2 = some (ZP, some M20) :=
  readBoardAux_step P2 4 (⟨N2, N1, N2, N2, N0, N1, N0, N0, N1⟩ : Grid) P2 [M11, M20, M21] rfl rfl
    (collectScores_cons v212221001 (collectScores_cons t212201201 (collectScores_cons v212201021 collectScores_nil))) rfl

theorem v212201000 : readBoardAux P2 6 (⟨N2, N1, N2, N2, N0, N1, N0, N0, N0⟩ : Grid) P1 = some (Z0, some M20) :=
  readBoardAux_step P2 5 (⟨N2, N1, N2, N2, N0, N1, N0, N0, N0⟩ : Grid) P1 [M11, M20, M21, M22] rfl rfl
    (collectScores_cons v212211000 (collectScores_cons v212201100 (collectScores_cons v212201010 (collectScores_cons v212201001 collectScores_nil)))) rfl

theorem v212021121 : readBoardAux P2 3 (⟨N2, N1, N2, N0, N2, N1, N1, N2, N1⟩ : Grid) P2 = some (Z0, some M10) :=
  readBoardAux_step P2 2 (⟨N2, N1, N2, N0, N2, N1, N1, N2, N1⟩ : Grid) P2 [M10] rfl rfl
    (collectScores_cons t212221121 collectScores_nil) rfl

theorem v212021120 : readBoardAux P2 4 (⟨N2, N1, N2, N0, N2, N1, N1, N2, N0⟩ : Grid) P1 = some (Z0, some M22) :=
  readBoardAux_step P2 3 (⟨N2, N1, N2, N0, N2, N1, N1, N2, N0⟩ : Grid) P1 [M10, M22] rfl rfl
    (collectScores_cons v212121120 (collectScores_cons v212021121 collectScores_nil)) rfl

theorem t212021102 : readBoardAux P2 4 (⟨N2, N1, N2, N0, N2, N1, N1, N0, N2⟩ : Grid) P1 = some (ZP, none) :=
  rfl

theorem v212021100 : readBoardAux P2 5 (⟨N2, N1, N2, N0, N2, N1, N1, N0, N0⟩ : Grid) P2 = some (ZP, some M22) :=
  readBoardAux_step P2 4 (⟨N2, N1, N2, N0, N2, N1, N1, N0, N0⟩ : Grid) P2 [M10, M21, M22] rfl rfl
    (collectScores_cons v212221100 (collectScores_cons v212021120 (collectScores_cons t212021102 collectScores_nil))) rfl

theorem t212021210 : readBoardAux P2 4 (⟨N2, N1, N2, N0, N2, N1, N2, N1, N0⟩ : Grid) P1 = some (ZP, none) :=
  rfl

theorem t212021012 : readBoardAux P2 4 (⟨N2, N1, N2, N0, N2, N1, N0, N1, N2⟩ : Grid) P1 = some (ZP, none) :=
  rfl

theorem v212021010 : readBoardAux P2 5 (⟨N2, N1, N2, N0, N2, N1, N0, N1, N0⟩ : Grid) P2 = some (ZP, some M10) :=
  readBoardAux_step P2 4 (⟨N2, N1, N2, N0, N2, N1, N0, N1, N0⟩ : Grid) P2 [M10, M20, M22] rfl rfl
    (collectScores_cons v212221010 (collectScores_cons t212021210 (collectScores_cons t212021012 collectScores_nil))) rfl

theorem t212021201 : readBoardAux P2 4 (⟨N2, N1, N2, N0, N2, N1, N2, N0, N1⟩ : Grid) P1 = some (ZP, none) :=
  rfl

theorem v212021021 : readBoardAux P2 4 (⟨N2, N1, N2, N0, N2, N1, N0, N2, N1⟩ : Grid) P1 = some (Z0, some M20) :=
  readBoardAux_step P2 3 (⟨N2, N1, N2, N0, N2, N1, N0, N2, N1⟩ : Grid) P1 [M10, M20] rfl rfl
    (collectScores_cons v212121021 (collectScores_cons v212021121 collectScores_nil)) rfl

theorem v212021001 : readBoardAux P2 5 (⟨N2, N1, N2, N0, N2, N1, N0, N0, N1⟩ : Grid) P2 = some (ZP, some M20) :=
  readBoardAux_step P2 4 (⟨N2, N1, N2, N0, N2, N1, N0, N0, N1⟩ : Grid) P2 [M10, M20, M21] rfl rfl
    (collectScores_cons v212221001 (collectScores_cons t212021201 (collectScores_cons v212021021 collectScores_nil))) rfl

theorem v212021000 : readBoardAux P2 6 (⟨N2, N1, N2, N0, N2, N1, N0, N0, N0⟩ : Grid) P1 = some (ZP, some M10) :=
  readBoardAux_step P2 5 (⟨N2, N1, N2, N0, N2, N1, N0, N0, N0⟩ : Grid) P1 [M10, M20, M21, M22] rfl rfl
    (collectScores_cons v212121000 (collectScores_cons v212021100 (collectScores_cons v212021010 (collectScores_cons v212021001 collectScores_nil)))) rfl

theorem v212001212 : readBoardAux P2 4 (⟨N2, N1, N2, N0, N0, N1, N2, N1, N2⟩ : Grid) P1 = some (ZM, some M11) :=
  readBoardAux_step P2 3 (⟨N2, N1, N2, N0, N0, N1, N2, N1, N2⟩ : Grid) P1 [M10, M11] rfl rfl
    (collectScores_cons v212101212 (collectScores_cons t212011212 collectScores_nil)) rfl

theorem v212001210 : readBoardAux P2 5 (⟨N2, N1, N2, N0, N0, N1, N2, N1, N0⟩ : Grid) P2 = some (ZP, some M10) :=
  readBoardAux_step P2 4 (⟨N2, N1, N2, N0, N0, N1, N2, N1, N0⟩ : Grid) P2 [M10, M11, M22] rfl rfl
    (collectScores_cons t212201210 (collectScores_cons t212021210 (collectScores_cons v212001212 collectScores_nil))) rfl

theorem v212001221 : readBoardAux P2 4 (⟨N2, N1, N2, N0, N0, N1, N2, N2, N1⟩ : Grid) P1 = some (ZP, some M10) :=
  readBoardAux_step P2 3 (⟨N2, N1, N2, N0, N0, N1, N2, N2, N1⟩ : Grid) P1 [M10, M11] rfl rfl
    (collectScores_cons v212101221 (collectScores_cons v212011221 collectScores_nil)) rfl

theorem v212001201 : readBoardAux P2 5 (⟨N2, N1, N2, N0, N0, N1, N2, N0, N1⟩ : Grid) P2 = some (ZP, some M10) :=
  readBoardAux_step P2 4 (⟨N2, N1, N2, N0, N0, N1, N2, N0, N1⟩ : Grid) P2 [M10, M11, M21] rfl rfl
    (collectScores_cons t212201201 (collectScores_cons t212021201 (collectScores_cons v212001221 collectScores_nil))) rfl

theorem v212001200 : readBoardAux P2 6 (⟨N2, N1, N2, N0, N0, N1, N2, N0, N0⟩ : Grid) P1 = some (ZP, some M10) :=
  readBoardAux_step P2 5 (⟨N2, N1, N2, N0, N0, N1, N2, N0, N0⟩ : Grid) P1 [M10, M11, M21, M22] rfl rfl
    (collectScores_cons v212101200 (collectScores_cons v212011200 (collectScores_cons v212001210 (collectScores_cons v212001201 collectScores_nil)))) rfl

theorem v212001122 : readBoardAux P2 4 (⟨N2, N1, N2, N0, N0, N1, N1, N2, N2⟩ : Grid) P1 = some (Z0, some M11) :=
  readBoardAux_step P2 3 (⟨N2, N1, N2, N0, N0, N1, N1, N2, N2⟩ : Grid) P1 [M10, M11] rfl rfl
    (collectScores_cons v212101122 (collectScores_cons v212011122 collectScores_nil)) rfl

theorem v212001120 : readBoardAux P2 5 (⟨N2, N1, N2, N0, N0, N1, N1, N2, N0⟩ : Grid) P2 = some (Z0, some M10) :=
  readBoardAux_step P2 4 (⟨N2, N1, N2, N0, N0, N1, N1, N2, N0⟩ : Grid) P2 [M10, M11, M22] rfl rfl
    (collectScores_cons v212201120 (collectScores_cons v212021120 (collectScores_cons v212001122 collectScores_nil))) rfl

theorem v212001021 : readBoardAux P2 5 (⟨N2, N1, N2, N0, N0, N1, N0, N2, N1⟩ : Grid) P2 = some (ZP, some M20) :=
  readBoardAux_step P2 4 (⟨N2, N1, N2, N0, N0, N1, N0, N2, N1⟩ : Grid) P2 [M10, M11, M20] rfl rfl
    (collectScores_cons v212201021 (collectScores_cons v212021021 (collectScores_cons v212001221 collectScores_nil))) rfl

theorem v212001020 : readBoardAux P2 6 (⟨N2, N1, N2, N0, N0, N1, N0, N2, N0⟩ : Grid) P1 = some (Z0, some M11) :=
  readBoardAux_step P2 5 (⟨N2, N1, N2, N0, N0, N1, N0, N2, N0⟩ : Grid) P1 [M10, M11, M20, M22] rfl rfl
    (collectScores_cons v212101020 (collectScores_cons v212011020 (collectScores_cons v212001120 (collectScores_cons v212001021 collectScores_nil)))) rfl

theorem v212001102 : readBoardAux P2 5 (⟨N2, N1, N2, N0, N0, N1, N1, N0, N2⟩ : Grid) P2 = some (ZP, some M11) :=
  readBoardAux_step P2 4 (⟨N2, N1, N2, N0, N0, N1, N1, N0, N2⟩ : Grid) P2 [M10, M11, M21] rfl rfl
    (collectScores_cons v212201102 (collectScores_cons t212021102 (collectScores_cons v212001122 collectScores_nil))) rfl

theorem v212001012 : readBoardAux P2 5 (⟨N2, N1, N2, N0, N0, N1, N0, N1, N2⟩ : Grid) P2 = some (ZP, some M11) :=
  readBoardAux_step P2 4 (⟨N2, N1, N2, N0, N0, N1, N0, N1, N2⟩ : Grid) P2 [M10, M11, M20] rfl rfl
    (collectScores_cons v212201012 (collectScores_cons t212021012 (collectScores_cons v212001212 collectScores_nil))) rfl

theorem v212001002 : readBoardAux P2 6 (⟨N2, N1, N2, N0, N0, N1, N0, N0, N2⟩ : Grid) P1 = some (ZM, some M11) :=
  readBoardAux_step P2 5 (⟨N2, N1, N2, N0, N0, N1, N0, N0, N2⟩ : Grid) P1 [M10, M11, M20, M21] rfl rfl
    (collectScores_cons v212101002 (collectScores_cons v212011002 (collectScores_cons v212001102 (collectScores_cons v212001012 collectScores_nil)))) rfl

theorem v212001000 : readBoardAux P2 7 (⟨N2, N1, N2, N0, N0, N1, N0, N0, N0⟩ : Grid) P2 = some (ZP, some M11) :=
  readBoardAux_step P2 6 (⟨N2, N1, N2, N0, N0, N1, N0, N0, N0⟩ : Grid) P2 [M10, M11, M20, M21, M22] rfl rfl
    (collectScores_cons v212201000 (collectScores_cons v212021000 (collectScores_cons v212001200 (collectScores_cons v212001020 (collectScores_cons v212001002 collectScores_nil))))) rfl

theorem t212220111 : readBoardAux P2 3 (⟨N2, N1, N2, N2, N2, N0, N1, N1, N1⟩ : Grid) P2 = some (ZM, none) :=
  rfl

theorem v212220110 : readBoardAux P2 4 (⟨N2, N1, N2, N2, N2, N0, N1, N1, N0⟩ : Grid) P1 = some (ZM, some M22) :=
  readBoardAux_step P2 3 (⟨N2, N1, N2, N2, N2, N0, N1, N1, N0⟩ : Grid) P1 [M12, M22] rfl rfl
    (collectScores_cons v212221110 (collectScores_cons t212220111 collectScores_nil)) rfl

theorem t212202111 : readBoardAux P2 3 (⟨N2, N1, N2, N2, N0, N2, N1, N1, N1⟩ : Grid) P2 = some (ZM, none) :=
  rfl

theorem v212202110 : readBoardAux P2 4 (⟨N2, N1, N2, N2, N0, N2, N1, N1, N0⟩ : Grid) P1 = some (ZM, some M11) :=
  readBoardAux_step P2 3 (⟨N2, N1, N2, N2, N0, N2, N1, N1, N0⟩ : Grid) P1 [M11, M22] rfl rfl
    (collectScores_cons t212212110 (collectScores_cons t212202111 collectScores_nil)) rfl

theorem v212200112 : readBoardAux P2 4 (⟨N2, N1, N2, N2, N0, N0, N1, N1, N2⟩ : Grid) P1 = some (ZM, some M11) :=
  readBoardAux_step P2 3 (⟨N2, N1, N2, N2, N0, N0, N1, N1, N2⟩ : Grid) P1 [M11, M12] rfl rfl
    (collectScores_cons t212210112 (collectScores_cons v212201112 collectScores_nil)) rfl

theorem v212200110 : readBoardAux P2 5 (⟨N2, N1, N2, N2, N0, N0, N1, N1, N0⟩ : Grid) P2 = some (ZM, some M11) :=
  readBoardAux_step P2 4 (⟨N2, N1, N2, N2, N0, N0, N1, N1, N0⟩ : Grid) P2 [M11, M12, M22] rfl rfl
    (collectScores_cons v212220110 (collectScores_cons v212202110 (collectScores_cons v212200112 collectScores_nil))) rfl

theorem v212220101 : readBoardAux P2 4 (⟨N2, N1, N2, N2, N2, N0, N1, N0, N1⟩ : Grid) P1 = some (ZM, some M21) :=
  readBoardAux_step P2 3 (⟨N2, N1, N2, N2, N2, N0, N1, N0, N1⟩ : Grid) P1 [M12, M21] rfl rfl
    (collectScores_cons v212221101 (collectScores_cons t212220111 collectScores_nil)) rfl

theorem v212202101 : readBoardAux P2 4 (⟨N2, N1, N2, N2, N0, N2, N1, N0, N1⟩ : Grid) P1 = some (ZM, some M21) :=
  readBoardAux_step P2 3 (⟨N2, N1, N2, N2, N0, N2, N1, N0, N1⟩ : Grid) P1 [M11, M21] rfl rfl
    (collectScores_cons v212212101 (collectScores_cons t212202111 collectScores_nil)) rfl

theorem v212200121 : readBoardAux P2 4 (⟨N2, N1, N2, N2, N0, N0, N1, N2, N1⟩ : Grid) P1 = some (Z0, some M11) :=
  readBoardAux_step P2 3 (⟨N2, N1, N2, N2, N0, N0, N1, N2, N1⟩ : Grid) P1 [M11, M12] rfl rfl
    (collectScores_cons v212210121 (collectScores_cons v212201121 collectScores_nil)) rfl

theorem v212200101 : readBoardAux P2 5 (⟨N2, N1, N2, N2, N0, N0, N1, N0, N1⟩ : Grid) P2 = some (Z0, some M21) :=
  readBoardAux_step P2 4 (⟨N2, N1, N2, N2, N0, N0, N1, N0, N1⟩ : Grid) P2 [M11, M12, M21] rfl rfl
    (collectScores_cons v212220101 (collectScores_cons v212202101 (collectScores_cons v212200121 collectScores_nil))) rfl

theorem v212200100 : readBoardAux P2 6 (⟨N2, N1, N2, N2, N0, N0, N1, N0, N0⟩ : Grid) P1 = some (ZM, some M21) :=
  readBoardAux_step P2 5 (⟨N2, N1, N2, N2, N0, N0, N1, N0, N0⟩ : Grid) P1 [M11, M12, M21, M22] rfl rfl
    (collectScores_cons v212210100 (collectScores_cons v212201100 (collectScores_cons v212200110 (collectScores_cons v212200101 collectScores_nil)))) rfl

theorem t212022111 : readBoardAux P2 3 (⟨N2, N1, N2, N0, N2, N2, N1, N1, N1⟩ : Grid) P2 = some (ZM, none) :=
  rfl

theorem v212022110 : readBoardAux P2 4 (⟨N2, N1, N2, N0, N2, N2, N1, N1, N0⟩ : Grid) P1 = some (ZM, some M22) :=
  readBoardAux_step P2 3 (⟨N2, N1, N2, N0, N2, N2, N1, N1, N0⟩ : Grid) P1 [M10, M22] rfl rfl
    (collectScores_cons v212122110 (collectScores_cons t212022111 collectScores_nil)) rfl

theorem t212020112 : readBoardAux P2 4 (⟨N2, N1, N2, N0, N2, N0, N1, N1, N2⟩ : Grid) P1 = some (ZP, none) :=
  rfl

theorem v212020110 : readBoardAux P2 5 (⟨N2, N1, N2, N0, N2, N0, N1, N1, N0⟩ : Grid) P2 = some (ZP, some M22) :=
  readBoardAux_step P2 4 (⟨N2, N1, N2, N0, N2, N0, N1, N1, N0⟩ : Grid) P2 [M10, M12, M22] rfl rfl
    (collectScores_cons v212220110 (collectScores_cons v212022110 (collectScores_cons t212020112 collectScores_nil))) rfl

theorem v212022101 : readBoardAux P2 4 (⟨N2, N1, N2, N0, N2, N2, N1, N0, N1⟩ : Grid) P1 = some (ZM, some M21) :=
  readBoardAux_step P2 3 (⟨N2, N1, N2, N0, N2, N2, N1, N0, N1⟩ : Grid) P1 [M10, M21] rfl rfl
    (collectScores_cons v212122101 (collectScores_cons t212022111 collectScores_nil)) rfl

theorem v212020121 : readBoardAux P2 4 (⟨N2, N1, N2, N0, N2, N0, N1, N2, N1⟩ : Grid) P1 = some (Z0, some M10) :=
  readBoardAux_step P2 3 (⟨N2, N1, N2, N0, N2, N0, N1, N2, N1⟩ : Grid) P1 [M10, M12] rfl rfl
    (collectScores_cons v212120121 (collectScores_cons v212021121 collectScores_nil)) rfl

theorem v212020101 : readBoardAux P2 5 (⟨N2, N1, N2, N0, N2, N0, N1, N0, N1⟩ : Grid) P2 = some (Z0, some M21) :=
  readBoardAux_step P2 4 (⟨N2, N1, N2, N0, N2, N0, N1, N0, N1⟩ : Grid) P2 [M10, M12, M21] rfl rfl
    (collectScores_cons v212220101 (collectScores_cons v212022101 (collectScores_cons v212020121 collectScores_nil))) rfl

theorem v212020100 : readBoardAux P2 6 (⟨N2, N1, N2, N0, N2, N0, N1, N0, N0⟩ : Grid) P1 = some (Z0, some M22) :=
  readBoardAux_step P2 5 (⟨N2, N1, N2, N0, N2, N0, N1, N0, N0⟩ : Grid) P1 [M10, M12, M21, M22] rfl rfl
    (collectScores_cons v212120100 (collectScores_cons v212021100 (collectScores_cons v212020110 (collectScores_cons v212020101 collectScores_nil)))) rfl

theorem t212002112 : readBoardAux P2 4 (⟨N2, N1, N2, N0, N0, N2, N1, N1, N2⟩ : Grid) P1 = some (ZP, none) :=
  rfl

theorem v212002110 : readBoardAux P2 5 (⟨N2, N1, N2, N0, N0, N2, N1, N1, N0⟩ : Grid) P2 = some (ZP, some M22) :=
  readBoardAux_step P2 4 (⟨N2, N1, N2, N0, N0, N2, N1, N1, N0⟩ : Grid) P2 [M10, M11, M22] rfl rfl
    (collectScores_cons v212202110 (collectScores_cons v212022110 (collectScores_cons t212002112 collectScores_nil))) rfl

theorem v212002121 : readBoardAux P2 4 (⟨N2, N1, N2, N0, N0, N2, N1, N2, N1⟩ : Grid) P1 = some (Z0, some M10) :=
  readBoardAux_step P2 3 (⟨N2, N1, N2, N0, N0, N2, N1, N2, N1⟩ : Grid) P1 [M10, M11] rfl rfl
    (collectScores_cons v212102121 (collectScores_cons v212012121 collectScores_nil)) rfl

theorem v212002101 : readBoardAux P2 5 (⟨N2, N1, N2, N0, N0, N2, N1, N0, N1⟩ : Grid) P2 = some (Z0, some M21) :=
  readBoardAux_step P2 4 (⟨N2, N1, N2, N0, N0, N2, N1, N0, N1⟩ : Grid) P2 [M10, M11, M21] rfl rfl
    (collectScores_cons v212202101 (collectScores_cons v212022101 (collectScores_cons v212002121 collectScores_nil))) rfl

theorem v212002100 : readBoardAux P2 6 (⟨N2, N1, N2, N0, N0, N2, N1, N0, N0⟩ : Grid) P1 = some (Z0, some M22) :=
  readBoardAux_step P2 5 (⟨N2, N1, N2, N0, N0, N2, N1, N0, N0⟩ : Grid) P1 [M10, M11, M21, M22] rfl rfl
    (collectScores_cons v212102100 (collectScores_cons v212012100 (collectScores_cons v212002110 (collectScores_cons v212002101 collectScores_nil)))) rfl

theorem v212000121 : readBoardAux P2 5 (⟨N2, N1, N2, N0, N0, N0, N1, N2, N1⟩ : Grid) P2 = some (Z0, some M10) :=
  readBoardAux_step P2 4 (⟨N2, N1, N2, N0, N0, N0, N1, N2, N1⟩ : Grid) P2 [M10, M11, M12] rfl rfl
    (collectScores_cons v212200121 (collectScores_cons v212020121 (collectScores_cons v212002121 collectScores_nil))) rfl

theorem v212000120 : readBoardAux P2 6 (⟨N2, N1, N2, N0, N0, N0, N1, N2, N0⟩ : Grid) P1 = some (Z0, some M11) :=
  readBoardAux_step P2 5 (⟨N2, N1, N2, N0, N0, N0, N1, N2, N0⟩ : Grid) P1 [M10, M11, M12, M22] rfl rfl
    (collectScores_cons v212100120 (collectScores_cons v212010120 (collectScores_cons v212001120 (collectScores_cons v212000121 collectScores_nil)))) rfl

theorem v212000112 : readBoardAux P2 5 (⟨N2, N1, N2, N0, N0, N0, N1, N1, N2⟩ : Grid) P2 = some (ZP, some M11) :=
  readBoardAux_step P2 4 (⟨N2, N1, N2, N0, N0, N0, N1, N1, N2⟩ : Grid) P2 [M10, M11, M12] rfl rfl
    (collectScores_cons v212200112 (collectScores_cons t212020112 (collectScores_cons t212002112 collectScores_nil))) rfl

theorem v212000102 : readBoardAux P2 6 (⟨N2, N1, N2, N0, N0, N0, N1, N0, N2⟩ : Grid) P1 = some (ZP, some M10) :=
  readBoardAux_step P2 5 (⟨N2, N1, N2, N0, N0, N0, N1, N0, N2⟩ : Grid) P1 [M10, M11, M12, M21] rfl rfl
    (collectScores_cons v212100102 (collectScores_cons v212010102 (collectScores_cons v212001102 (collectScores_cons v212000112 collectScores_nil)))) rfl

theorem v212000100 : readBoardAux P2 7 (⟨N2, N1, N2, N0, N0, N0, N1, N0, N0⟩ : Grid) P2 = some (ZP, some M22) :=
  readBoardAux_step P2 6 (⟨N2, N1, N2, N0, N0, N0, N1, N0, N0⟩ : Grid) P2 [M10, M11, M12, M21, M22] rfl rfl
    (collectScores_cons v212200100 (collectScores_cons v212020100 (collectScores_cons v212002100 (collectScores_cons v212000120 (collectScores_cons v212000102 collectScores_nil))))) rfl

theorem v212220011 : readBoardAux P2 4 (⟨N2, N1, N2, N2, N2, N0, N0, N1, N1⟩ : Grid) P1 = some (ZM, some M20) :=
  readBoardAux_step P2 3 (⟨N2, N1, N2, N2, N2, N0, N0, N1, N1⟩ : Grid) P1 [M12, M20] rfl rfl
    (collectScores_cons v212221011 (collectScores_cons t212220111 collectScores_nil)) rfl

theorem v212202011 : readBoardAux P2 4 (⟨N2, N1, N2, N2, N0, N2, N0, N1, N1⟩ : Grid) P1 = some (ZM, some M11) :=
  readBoardAux_step P2 3 (⟨N2, N1, N2, N2, N0, N2, N0, N1, N1⟩ : Grid) P1 [M11, M20] rfl rfl
    (collectScores_cons t212212011 (collectScores_cons t212202111 collectScores_nil)) rfl

theorem t212200211 : readBoardAux P2 4 (⟨N2, N1, N2, N2, N0, N0, N2, N1, N1⟩ : Grid) P1 = some (ZP, none) :=
  rfl

theorem v212200011 : readBoardAux P2 5 (⟨N2, N1, N2, N2, N0, N0, N0, N1, N1⟩ : Grid) P2 = some (ZP, some M20) :=
  readBoardAux_step P2 4 (⟨N2, N1, N2, N2, N0, N0, N0, N1, N1⟩ : Grid) P2 [M11, M12, M20] rfl rfl
    (collectScores_cons v212220011 (collectScores_cons v212202011 (collectScores_cons t212200211 collectScores_nil))) rfl

theorem v212200010 : readBoardAux P2 6 (⟨N2, N1, N2, N2, N0, N0, N0, N1, N0⟩ : Grid) P1 = some (ZM, some M11) :=
  readBoardAux_step P2 5 (⟨N2, N1, N2, N2, N0, N0, N0, N1, N0⟩ : Grid) P1 [M11, M12, M20, M22] rfl rfl
    (collectScores_cons t212210010 (collectScores_cons v212201010 (collectScores_cons v212200110 (collectScores_cons v212200011 collectScores_nil)))) rfl

theorem v212022011 : readBoardAux P2 4 (⟨N2, N1, N2, N0, N2, N2, N0, N1, N1⟩ : Grid) P1 = some (ZM, some M20) :=
  readBoardAux_step P2 3 (⟨N2, N1, N2, N0, N2, N2, N0, N1, N1⟩ : Grid) P1 [M10, M20] rfl rfl
    (collectScores_cons v212122011 (collectScores_cons t212022111 collectScores_nil)) rfl

theorem t212020211 : readBoardAux P2 4 (⟨N2, N1, N2, N0, N2, N0, N2, N1, N1⟩ : Grid) P1 = some (ZP, none) :=
  rfl

theorem v212020011 : readBoardAux P2 5 (⟨N2, N1, N2, N0, N2, N0, N0, N1, N1⟩ : Grid) P2 = some (ZP, some M20) :=
  readBoardAux_step P2 4 (⟨N2, N1, N2, N0, N2, N0, N0, N1, N1⟩ : Grid) P2 [M10, M12, M20] rfl rfl
    (collectScores_cons v212220011 (collectScores_cons v212022011 (collectScores_cons t212020211 collectScores_nil))) rfl

theorem v212020010 : readBoardAux P2 6 (⟨N2, N1, N2, N0, N2, N0, N0, N1, N0⟩ : Grid) P1 = some (ZP, some M10) :=
  readBoardAux_step P2 5 (⟨N2, N1, N2, N0, N2, N0, N0, N1, N0⟩ : Grid) P1 [M10, M12, M20, M22] rfl rfl
    (collectScores_cons v212120010 (collectScores_cons v212021010 (collectScores_cons v212020110 (collectScores_cons v212020011 collectScores_nil)))) rfl

theorem v212002211 : readBoardAux P2 4 (⟨N2, N1, N2, N0, N0, N2, N2, N1, N1⟩ : Grid) P1 = some (ZM, some M11) :=
  readBoardAux_step P2 3 (⟨N2, N1, N2, N0, N0, N2, N2, N1, N1⟩ : Grid) P1 [M10, M11] rfl rfl
    (collectScores_cons v212102211 (collectScores_cons t212012211 collectScores_nil)) rfl

theorem v212002011 : readBoardAux P2 5 (⟨N2, N1, N2, N0, N0, N2, N0, N1, N1⟩ : Grid) P2 = some (ZM, some M10) :=
  readBoardAux_step P2 4 (⟨N2, N1, N2, N0, N0, N2, N0, N1, N1⟩ : Grid) P2 [M10, M11, M20] rfl rfl
    (collectScores_cons v212202011 (collectScores_cons v212022011 (collectScores_cons v212002211 collectScores_nil))) rfl

theorem v212002010 : readBoardAux P2 6 (⟨N2, N1, N2, N0, N0, N2, N0, N1, N0⟩ : Grid) P1 = some (ZM, some M11) :=
  readBoardAux_step P2 5 (⟨N2, N1, N2, N0, N0, N2, N0, N1, N0⟩ : Grid) P1 [M10, M11, M20, M22] rfl rfl
    (collectScores_cons v212102010 (collectScores_cons t212012010 (collectScores_cons v212002110 (collectScores_cons v212002011 collectScores_nil)))) rfl

theorem v212000211 : readBoardAux P2 5 (⟨N2, N1, N2, N0, N0, N0, N2, N1, N1⟩ : Grid) P2 = some (ZP, some M10) :=
  readBoardAux_step P2 4 (⟨N2, N1, N2, N0, N0, N0, N2, N1, N1⟩ : Grid) P2 [M10, M11, M12] rfl rfl
    (collectScores_cons t212200211 (collectScores_cons t212020211 (collectScores_cons v212002211 collectScores_nil))) rfl

theorem v212000210 : readBoardAux P2 6 (⟨N2, N1, N2, N0, N0, N0, N2, N1, N0⟩ : Grid) P1 = some (ZM, some M11) :=
  readBoardAux_step P2 5 (⟨N2, N1, N2, N0, N0, N0, N2, N1, N0⟩ : Grid) P1 [M10, M11, M12, M22] rfl rfl
    (collectScores_cons v212100210 (collectScores_cons t212010210 (collectScores_cons v212001210 (collectScores_cons v212000211 collectScores_nil)))) rfl

theorem v212000012 : readBoardAux P2 6 (⟨N2, N1, N2, N0, N0, N0, N0, N1, N2⟩ : Grid) P1 = some (ZM, some M11) :=
  readBoardAux_step P2 5 (⟨N2, N1, N2, N0, N0, N0, N0, N1, N2⟩ : Grid) P1 [M10, M11, M12, M20] rfl rfl
    (collectScores_cons v212100012 (collectScores_cons t212010012 (collectScores_cons v212001012 (collectScores_cons v212000112 collectScores_nil)))) rfl

theorem v212000010 : readBoardAux P2 7 (⟨N2, N1, N2, N0, N0, N0, N0, N1, N0⟩ : Grid) P2 = some (ZP, some M11) :=
  readBoardAux_step P2 6 (⟨N2, N1, N2, N0, N0, N0, N0, N1, N0⟩ : Grid) P2 [M10, M11, M12, M20, M22] rfl rfl
    (collectScores_cons v212200010 (collectScores_cons v212020010 (collectScores_cons v212002010 (collectScores_cons v212000210 (collectScores_cons v212000012 collectScores_nil))))) rfl

theorem v212200001 : readBoardAux P2 6 (⟨N2, N1, N2, N2, N0, N0, N0, N0, N1⟩ : Grid) P1 = some (Z0, some M20) :=
  readBoardAux_step P2 5 (⟨N2, N1, N2, N2, N0, N0, N0, N0, N1⟩ : Grid) P1 [M11, M12, M20, M21] rfl rfl
    (collectScores_cons v212210001 (collectScores_cons v212201001 (collectScores_cons v212200101 (collectScores_cons v212200011 collectScores_nil)))) rfl

theorem v212020001 : readBoardAux P2 6 (⟨N2, N1, N2, N0, N2, N0, N0, N0, N1⟩ : Grid) P1 = some (Z0, some M20) :=
  readBoardAux_step P2 5 (⟨N2, N1, N2, N0, N2, N0, N0, N0, N1⟩ : Grid) P1 [M10, M12, M20, M21] rfl rfl
    (collectScores_cons v212120001 (collectScores_cons v212021001 (collectScores_cons v212020101 (collectScores_cons v212020011 collectScores_nil)))) rfl

theorem v212002001 : readBoardAux P2 6 (⟨N2, N1, N2, N0, N0, N2, N0, N0, N1⟩ : Grid) P1 = some (ZM, some M21) :=
  readBoardAux_step P2 5 (⟨N2, N1, N2, N0, N0, N2, N0, N0, N1⟩ : Grid) P1 [M10, M11, M20, M21] rfl rfl
    (collectScores_cons v212102001 (collectScores_cons v212012001 (collectScores_cons v212002101 (collectScores_cons v212002011 collectScores_nil)))) rfl

theorem v212000201 : readBoardAux P2 6 (⟨N2, N1, N2, N0, N0, N0, N2, N0, N1⟩ : Grid) P1 = some (ZP, some M10) :=
  readBoardAux_step P2 5 (⟨N2, N1, N2, N0, N0, N0, N2, N0, N1⟩ : Grid) P1 [M10, M11, M12, M21] rfl rfl
    (collectScores_cons v212100201 (collectScores_cons v212010201 (collectScores_cons v212001201 (collectScores_cons v212000211 collectScores_nil)))) rfl

theorem v212000021 : readBoardAux P2 6 (⟨N2, N1, N2, N0, N0, N0, N0, N2, N1⟩ : Grid) P1 = some (Z0, some M10) :=
  readBoardAux_step P2 5 (⟨N2, N1, N2, N0, N0, N0, N0, N2, N1⟩ : Grid) P1 [M10, M11, M12, M20] rfl rfl
    (collectScores_cons v212100021 (collectScores_cons v212010021 (collectScores_cons v212001021 (collectScores_cons v212000121 collectScores_nil)))) rfl

theorem v212000001 : readBoardAux P2 7 (⟨N2, N1, N2, N0, N0, N0, N0, N0, N1⟩ : Grid) P2 = some (ZP, some M20) :=
  readBoardAux_step P2 6 (⟨N2, N1, N2, N0, N0, N0, N0, N0, N1⟩ : Grid) P2 [M10, M11, M12, M20, M21] rfl rfl
    (collectScores_cons v212200001 (collectScores_cons v212020001 (collectScores_cons v212002001 (collectScores_cons v212000201 (collectScores_cons v212000021 collectScores_nil))))) rfl

theorem v212000000 : readBoardAux P2 8 (⟨N2, N1, N2, N0, N0, N0, N0, N0, N0⟩ : Grid) P1 = some (Z0, some M11) :=
  readBoardAux_step P2 7 (⟨N2, N1, N2, N0, N0, N0, N0, N0, N0⟩ : Grid) P1 [M10, M11, M12, M20, M21, M22] rfl rfl
    (collectScores_cons v212100000 (collectScores_cons v212010000 (collectScores_cons v212001000 (collectScores_cons v212000100 (collectScores_cons v212000010 (collectScores_cons v212000001 collectScores_nil)))))) rfl

theorem t211221200 : readBoardAux P2 4 (⟨N2, N1, N1, N2, N2, N1, N2, N0, N0⟩ : Grid) P1 = some (ZP, none) :=
  rfl

theorem t211221122 : readBoardAux P2 2 (⟨N2, N1, N1, N2, N2, N1, N1, N2, N2⟩ : Grid) P1 = some (ZP, none) :=
  rfl

theorem v211221120 : readBoardAux P2 3 (⟨N2, N1, N1, N2, N2, N1, N1, N2, N0⟩ : Grid) P2 = some (ZP, some M22) :=
  readBoardAux_step P2 2 (⟨N2, N1, N1, N2, N2, N1, N1, N2, N0⟩ : Grid) P2 [M22] rfl rfl
    (collectScores_cons t211221122 collectScores_nil) rfl

theorem t211221021 : readBoardAux P2 3 (⟨N2, N1, N1, N2, N2, N1, N0, N2, N1⟩ : Grid) P2 = some (ZM, none) :=
  rfl

theorem v211221020 : readBoardAux P2 4 (⟨N2, N1, N1, N2, N2, N1, N0, N2, N0⟩ : Grid) P1 = some (ZM, some M22) :=
  readBoardAux_step P2 3 (⟨N2, N1, N1, N2, N2, N1, N0, N2, N0⟩ : Grid) P1 [M20, M22] rfl rfl
    (collectScores_cons v211221120 (collectScores_cons t211221021 collectScores_nil)) rfl

theorem t211221002 : readBoardAux P2 4 (⟨N2, N1, N1, N2, N2, N1, N0, N0, N2⟩ : Grid) P1 = some (ZP, none) :=
  rfl

theorem v211221000 : readBoardAux P2 5 (⟨N2, N1, N1, N2, N2, N1, N0, N0, N0⟩ : Grid) P2 = some (ZP, some M20) :=
  readBoardAux_step P2 4 (⟨N2, N1, N1, N2, N2, N1, N0, N0, N0⟩ : Grid) P2 [M20, M21, M22] rfl rfl
    (collectScores_cons t211221200 (collectScores_cons v211221020 (collectScores_cons t211221002 collectScores_nil))) rfl

theorem t211222100 : readBoardAux P2 4 (⟨N2, N1, N1, N2, N2, N2, N1, N0, N0⟩ : Grid) P1 = some (ZP, none) :=
  rfl

theorem t211222121 : readBoardAux P2 2 (⟨N2, N1, N1, N2, N2, N2, N1, N2, N1⟩ : Grid) P1 = some (ZP, none) :=
  rfl

theorem v211220121 : readBoardAux P2 3 (⟨N2, N1, N1, N2, N2, N0, N1, N2, N1⟩ : Grid) P2 = some (ZP, some M12) :=
  readBoardAux_step P2 2 (⟨N2, N1, N1, N2, N2, N0, N1, N2, N1⟩ : Grid) P2 [M12] rfl rfl
    (collectScores_cons t211222121 collectScores_nil) rfl

theorem v211220120 : readBoardAux P2 4 (⟨N2, N1, N1, N2, N2, N0, N1, N2, N0⟩ : Grid) P1 = some (ZP, some M12) :=
  readBoardAux_step P2 3 (⟨N2, N1, N1, N2, N2, N0, N1, N2, N0⟩ : Grid) P1 [M12, M22] rfl rfl
    (collectScores_cons v211221120 (collectScores_cons v211220121 collectScores_nil)) rfl

theorem t211220102 : readBoardAux P2 4 (⟨N2, N1, N1, N2, N2, N0, N1, N0, N2⟩ : Grid) P1 = some (ZP, none) :=
  rfl

theorem v211220100 : readBoardAux P2 5 (⟨N2, N1, N1, N2, N2, N0, N1, N0, N0⟩ : Grid) P2 = some (ZP, some M12) :=
  readBoardAux_step P2 4 (⟨N2, N1, N1, N2, N2, N0, N1, N0, N0⟩ : Grid) P2 [M12, M21, M22] rfl rfl
    (collectScores_cons t211222100 (collectScores_cons v211220120 (collectScores_cons t211220102 collectScores_nil))) rfl

theorem t211222010 : readBoardAux P2 4 (⟨N2, N1, N1, N2, N2, N2, N0, N1, N0⟩ : Grid) P1 = some (ZP, none) :=
  rfl

theorem t211220210 : readBoardAux P2 4 (⟨N2, N1, N1, N2, N2, N0, N2, N1, N0⟩ : Grid) P1 = some (ZP, none) :=
  rfl

theorem t211220012 : readBoardAux P2 4 (⟨N2, N1, N1, N2, N2, N0, N0, N1, N2⟩ : Grid) P1 = some (ZP, none) :=
  rfl

theorem v211220010 : readBoardAux P2 5 (⟨N2, N1, N1, N2, N2, N0, N0, N1, N0⟩ : Grid) P2 = some (ZP, some M12) :=
  readBoardAux_step P2 4 (⟨N2, N1, N1, N2, N2, N0, N0, N1, N0⟩ : Grid) P2 [M12, M20, M22] rfl rfl
    (collectScores_cons t211222010 (collectScores_cons t211220210 (collectScores_cons t211220012 collectScores_nil))) rfl

theorem t211222001 : readBoardAux P2 4 (⟨N2, N1, N1, N2, N2, N2, N0, N0, N1⟩ : Grid) P1 = some (ZP, none) :=
  rfl

theorem t211220201 : readBoardAux P2 4 (⟨N2, N1, N1, N2, N2, N0, N2, N0, N1⟩ : Grid) P1 = some (ZP, none) :=
  rfl

theorem v211220021 : readBoardAux P2 4 (⟨N2, N1, N1, N2, N2, N0, N0, N2, N1⟩ : Grid) P1 = some (ZM, some M12) :=
  readBoardAux_step P2 3 (⟨N2, N1, N1, N2, N2, N0, N0, N2, N1⟩ : Grid) P1 [M12, M20] rfl rfl
    (collectScores_cons t211221021 (collectScores_cons v211220121 collectScores_nil)) rfl

theorem v211220001 : readBoardAux P2 5 (⟨N2, N1, N1, N2, N2, N0, N0, N0, N1⟩ : Grid) P2 = some (ZP, some M12) :=
  readBoardAux_step P2 4 (⟨N2, N1, N1, N2, N2, N0, N0, N0, N1⟩ : Grid) P2 [M12, M20, M21] rfl rfl
    (collectScores_cons t211222001 (collectScores_cons t211220201 (collectScores_cons v211220021 collectScores_nil))) rfl

theorem v211220000 : readBoardAux P2 6 (⟨N2, N1, N1, N2, N2, N0, N0, N0, N0⟩ : Grid) P1 = some (ZP, some M12) :=
  readBoardAux_step P2 5 (⟨N2, N1, N1, N2, N2, N0, N0, N0, N0⟩ : Grid) P1 [M12, M20, M21, M22] rfl rfl
    (collectScores_cons v211221000 (collectScores_cons v211220100 (collectScores_cons v211220010 (collectScores_cons v211220001 collectScores_nil)))) rfl

theorem t211212200 : readBoardAux P2 4 (⟨N2, N1, N1, N2, N1, N2, N2, N0, N0⟩ : Grid) P1 = some (ZP, none) :=
  rfl

theorem t211212120 : readBoardAux P2 3 (⟨N2, N1, N1, N2, N1, N2, N1, N2, N0⟩ : Grid) P2 = some (ZM, none) :=
  rfl

theorem t211212221 : readBoardAux P2 2 (⟨N2, N1, N1, N2, N1, N2, N2, N2, N1⟩ : Grid) P1 = some (ZP, none) :=
  rfl

theorem v211212021 : readBoardAux P2 3 (⟨N2, N1, N1, N2, N1, N2, N0, N2, N1⟩ : Grid) P2 = some (ZP, some M20) :=
  readBoardAux_step P2 2 (⟨N2, N1, N1, N2, N1, N2, N0, N2, N1⟩ : Grid) P2 [M20] rfl rfl
    (collectScores_cons t211212221 collectScores_nil) rfl

theorem v211212020 : readBoardAux P2 4 (⟨N2, N1, N1, N2, N1, N2, N0, N2, N0⟩ : Grid) P1 = some (ZM, some M20) :=
  readBoardAux_step P2 3 (⟨N2, N1, N1, N2, N1, N2, N0, N2, N0⟩ : Grid) P1 [M20, M22] rfl rfl
    (collectScores_cons t211212120 (collectScores_cons v211212021 collectScores_nil)) rfl

theorem t211212102 : readBoardAux P2 3 (⟨N2, N1, N1, N2, N1, N2, N1, N0, N2⟩ : Grid) P2 = some (ZM, none) :=
  rfl

theorem t211212012 : readBoardAux P2 3 (⟨N2, N1, N1, N2, N1, N2, N0, N1, N2⟩ : Grid) P2 = some (ZM, none) :=
  rfl

theorem v211212002 : readBoardAux P2 4 (⟨N2, N1, N1, N2, N1, N2, N0, N0, N2⟩ : Grid) P1 = some (ZM, some M20) :=
  readBoardAux_step P2 3 (⟨N2, N1, N1, N2, N1, N2, N0, N0, N2⟩ : Grid) P1 [M20, M21] rfl rfl
    (collectScores_cons t211212102 (collectScores_cons t211212012 collectScores_nil)) rfl

theorem v211212000 : readBoardAux P2 5 (⟨N2, N1, N1, N2, N1, N2, N0, N0, N0⟩ : Grid) P2 = some (ZP, some M20) :=
  readBoardAux_step P2 4 (⟨N2, N1, N1, N2, N1, N2, N0, N0, N0⟩ : Grid) P2 [M20, M21, M22] rfl rfl
    (collectScores_cons t211212200 (collectScores_cons v211212020 (collectScores_cons v211212002 collectScores_nil))) rfl

theorem v211202121 : readBoardAux P2 3 (⟨N2, N1, N1, N2, N0, N2, N1, N2, N1⟩ : Grid) P2 = some (ZP, some M11) :=
  readBoardAux_step P2 2 (⟨N2, N1, N1, N2, N0, N2, N1, N2, N1⟩ : Grid) P2 [M11] rfl rfl
    (collectScores_cons t211222121 collectScores_nil) rfl

theorem v211202120 : readBoardAux P2 4 (⟨N2, N1, N1, N2, N0, N2, N1, N2, N0⟩ : Grid) P1 = some (ZM, some M11) :=
  readBoardAux_step P2 3 (⟨N2, N1, N1, N2, N0, N2, N1, N2, N0⟩ : Grid) P1 [M11, M22] rfl rfl
    (collectScores_cons t211212120 (collectScores_cons v211202121 collectScores_nil)) rfl

theorem t211222112 : readBoardAux P2 2 (⟨N2, N1, N1, N2, N2, N2, N1, N1, N2⟩ : Grid) P1 = some (ZP, none) :=
  rfl

theorem v211202112 : readBoardAux P2 3 (⟨N2, N1, N1, N2, N0, N2, N1, N1, N2⟩ : Grid) P2 = some (ZP, some M11) :=
  readBoardAux_step P2 2 (⟨N2, N1, N1, N2, N0, N2, N1, N1, N2⟩ : Grid) P2 [M11] rfl rfl
    (collectScores_cons t211222112 collectScores_nil) rfl

theorem v211202102 : readBoardAux P2 4 (⟨N2, N1, N1, N2, N0, N2, N1, N0, N2⟩ : Grid) P1 = some (ZM, some M11) :=
  readBoardAux_step P2 3 (⟨N2, N1, N1, N2, N0, N2, N1, N0, N2⟩ : Grid) P1 [M11, M21] rfl rfl
    (collectScores_cons t211212102 (collectScores_cons v211202112 collectScores_nil)) rfl

theorem v211202100 : readBoardAux P2 5 (⟨N2, N1, N1, N2, N0, N2, N1, N0, N0⟩ : Grid) P2 = some (ZP, some M11) :=
  readBoardAux_step P2 4 (⟨N2, N1, N1, N2, N0, N2, N1, N0, N0⟩ : Grid) P2 [M11, M21, M22] rfl rfl
    (collectScores_cons t211222100 (collectScores_cons v211202120 (collectScores_cons v211202102 collectScores_nil))) rfl

theorem t211202210 : readBoardAux P2 4 (⟨N2, N1, N1, N2, N0, N2, N2, N1, N0⟩ : Grid) P1 = some (ZP, none) :=
  rfl

theorem v211202012 : readBoardAux P2 4 (⟨N2, N1, N1, N2, N0, N2, N0, N1, N2⟩ : Grid) P1 = some (ZM, some M11) :=
  readBoardAux_step P2 3 (⟨N2, N1, N1, N2, N0, N2, N0, N1, N2⟩ : Grid) P1 [M11, M20] rfl rfl
    (collectScores_cons t211212012 (collectScores_cons v211202112 collectScores_nil)) rfl

theorem v211202010 : readBoardAux P2 5 (⟨N2, N1, N1, N2, N0, N2, N0, N1, N0⟩ : Grid) P2 = some (ZP, some M11) :=
  readBoardAux_step P2 4 (⟨N2, N1, N1, N2, N0, N2, N0, N1, N0⟩ : Grid) P2 [M11, M20, M22] rfl rfl
    (collectScores_cons t211222010 (collectScores_cons t211202210 (collectScores_cons v211202012 collectScores_nil))) rfl

theorem t211202201 : readBoardAux P2 4 (⟨N2, N1, N1, N2, N0, N2, N2, N0, N1⟩ : Grid) P1 = some (ZP, none) :=
  rfl

theorem v211202021 : readBoardAux P2 4 (⟨N2, N1, N1, N2, N0, N2, N0, N2, N1⟩ : Grid) P1 = some (ZP, some M11) :=
  readBoardAux_step P2 3 (⟨N2, N1, N1, N2, N0, N2, N0, N2, N1⟩ : Grid) P1 [M11, M20] rfl rfl
    (collectScores_cons v211212021 (collectScores_cons v211202121 collectScores_nil)) rfl

theorem v211202001 : readBoardAux P2 5 (⟨N2, N1, N1, N2, N0, N2, N0, N0, N1⟩ : Grid) P2 = some (ZP, some M11) :=
  readBoardAux_step P2 4 (⟨N2, N1, N1, N2, N0, N2, N0, N0, N1⟩ : Grid) P2 [M11, M20, M21] rfl rfl
    (collectScores_cons t211222001 (collectScores_cons t211202201 (collectScores_cons v211202021 collectScores_nil))) rfl

theorem v211202000 : readBoardAux P2 6 (⟨N2, N1, N1, N2, N0, N2, N0, N0, N0⟩ : Grid) P1 = some (ZP, some M11) :=
  readBoardAux_step P2 5 (⟨N2, N1, N1, N2, N0, N2, N0, N0, N0⟩ : Grid) P1 [M11, M20, M21, M22] rfl rfl
    (collectScores_cons v211212000 (collectScores_cons v211202100 (collectScores_cons v211202010 (collectScores_cons v211202001 collectScores_nil)))) rfl

theorem t211200200 : readBoardAux P2 6 (⟨N2, N1, N1, N2, N0, N0, N2, N0, N0⟩ : Grid) P1 = some (ZP, none) :=
  rfl

theorem t211210220 : readBoardAux P2 4 (⟨N2, N1, N1, N2, N1, N0, N2, N2, N0⟩ : Grid) P1 = some (ZP, none) :=
  rfl

theorem t211211222 : readBoardAux P2 2 (⟨N2, N1, N1, N2, N1, N1, N2, N2, N2⟩ : Grid) P1 = some (ZP, none) :=
  rfl

theorem v211211022 : readBoardAux P2 3 (⟨N2, N1, N1, N2, N1, N1, N0, N2, N2⟩ : Grid) P2 = some (ZP, some M20) :=
  readBoardAux_step P2 2 (⟨N2, N1, N1, N2, N1, N1, N0, N2, N2⟩ : Grid) P2 [M20] rfl rfl
    (collectScores_cons t211211222 collectScores_nil) rfl

theorem t211210122 : readBoardAux P2 3 (⟨N2, N1, N1, N2, N1, N0, N1, N2, N2⟩ : Grid) P2 = some (ZM, none) :=
  rfl

theorem v211210022 : readBoardAux P2 4 (⟨N2, N1, N1, N2, N1, N0, N0, N2, N2⟩ : Grid) P1 = some (ZM, some M20) :=
  readBoardAux_step P2 3 (⟨N2, N1, N1, N2, N1, N0, N0, N2, N2⟩ : Grid) P1 [M12, M20] rfl rfl
    (collectScores_cons v211211022 (collectScores_cons t211210122 collectScores_nil)) rfl

theorem v211210020 : readBoardAux P2 5 (⟨N2, N1, N1, N2, N1, N0, N0, N2, N0⟩ : Grid) P2 = some (ZP, some M20) :=
  readBoardAux_step P2 4 (⟨N2, N1, N1, N2, N1, N0, N0, N2, N0⟩ : Grid) P2 [M12, M20, M22] rfl rfl
    (collectScores_cons v211212020 (collectScores_cons t211210220 (collectScores_cons v211210022 collectScores_nil))) rfl

theorem t211201220 : readBoardAux P2 4 (⟨N2, N1, N1, N2, N0, N1, N2, N2, N0⟩ : Grid) P1 = some (ZP, none) :=
  rfl

theorem v211201122 : readBoardAux P2 3 (⟨N2, N1, N1, N2, N0, N1, N1, N2, N2⟩ : Grid) P2 = some (ZP, some M11) :=
  readBoardAux_step P2 2 (⟨N2, N1, N1, N2, N0, N1, N1, N2, N2⟩ : Grid) P2 [M11] rfl rfl
    (collectScores_cons t211221122 collectScores_nil) rfl

theorem v211201022 : readBoardAux P2 4 (⟨N2, N1, N1, N2, N0, N1, N0, N2, N2⟩ : Grid) P1 = some (ZP, some M11) :=
  readBoardAux_step P2 3 (⟨N2, N1, N1, N2, N0, N1, N0, N2, N2⟩ : Grid) P1 [M11, M20] rfl rfl
    (collectScores_cons v211211022 (collectScores_cons v211201122 collectScores_nil)) rfl

theorem v211201020 : readBoardAux P2 5 (⟨N2, N1, N1, N2, N0, N1, N0, N2, N0⟩ : Grid) P2 = some (ZP, some M20) :=
  readBoardAux_step P2 4 (⟨N2, N1, N1, N2, N0, N1, N0, N2, N0⟩ : Grid) P2 [M11, M20, M22] rfl rfl
    (collectScores_cons v211221020 (collectScores_cons t211201220 (collectScores_cons v211201022 collectScores_nil))) rfl

theorem v211200122 : readBoardAux P2 4 (⟨N2, N1, N1, N2, N0, N0, N1, N2, N2⟩ : Grid) P1 = some (ZM, some M11) :=
  readBoardAux_step P2 3 (⟨N2, N1, N1, N2, N0, N0, N1, N2, N2⟩ : Grid) P1 [M11, M12] rfl rfl
    (collectScores_cons t211210122 (collectScores_cons v211201122 collectScores_nil)) rfl

theorem v211200120 : readBoardAux P2 5 (⟨N2, N1, N1, N2, N0, N0, N1, N2, N0⟩ : Grid) P2 = some (ZP, some M11) :=
  readBoardAux_step P2 4 (⟨N2, N1, N1, N2, N0, N0, N1, N2, N0⟩ : Grid) P2 [M11, M12, M22] rfl rfl
    (collectScores_cons v211220120 (collectScores_cons v211202120 (collectScores_cons v211200122 collectScores_nil))) rfl

theorem t211200221 : readBoardAux P2 4 (⟨N2, N1, N1, N2, N0, N0, N2, N2, N1⟩ : Grid) P1 = some (ZP, none) :=
  rfl

theorem v211200021 : readBoardAux P2 5 (⟨N2, N1, N1, N2, N0, N0, N0, N2, N1⟩ : Grid) P2 = some (ZP, some M12) :=
  readBoardAux_step P2 4 (⟨N2, N1, N1, N2, N0, N0, N0, N2, N1⟩ : Grid) P2 [M11, M12, M20] rfl rfl
    (collectScores_cons v211220021 (collectScores_cons v211202021 (collectScores_cons t211200221 collectScores_nil))) rfl

theorem v211200020 : readBoardAux P2 6 (⟨N2, N1, N1, N2, N0, N0, N0, N2, N0⟩ : Grid) P1 = some (ZP, some M11) :=
  readBoardAux_step P2 5 (⟨N2, N1, N1, N2, N0, N0, N0, N2, N0⟩ : Grid) P1 [M11, M12, M20, M22] rfl rfl
    (collectScores_cons v211210020 (collectScores_cons v211201020 (collectScores_cons v211200120 (collectScores_cons v211200021 collectScores_nil)))) rfl

theorem t211210202 : readBoardAux P2 4 (⟨N2, N1, N1, N2, N1, N0, N2, N0, N2⟩ : Grid) P1 = some (ZP, none) :=
  rfl

theorem v211210002 : readBoardAux P2 5 (⟨N2, N1, N1, N2, N1, N0, N0, N0, N2⟩ : Grid) P2 = some (ZP, some M20) :=
  readBoardAux_step P2 4 (⟨N2, N1, N1, N2, N1, N0, N0, N0, N2⟩ : Grid) P2 [M12, M20, M21] rfl rfl
    (collectScores_cons v211212002 (collectScores_cons t211210202 (collectScores_cons v211210022 collectScores_nil))) rfl

theorem t211201202 : readBoardAux P2 4 (⟨N2, N1, N1, N2, N0, N1, N2, N0, N2⟩ : Grid) P1 = some (ZP, none) :=
  rfl

theorem v211201002 : readBoardAux P2 5 (⟨N2, N1, N1, N2, N0, N1, N0, N0, N2⟩ : Grid) P2 = some (ZP, some M11) :=
  readBoardAux_step P2 4 (⟨N2, N1, N1, N2, N0, N1, N0, N0, N2⟩ : Grid) P2 [M11, M20, M21] rfl rfl
    (collectScores_cons t211221002 (collectScores_cons t211201202 (collectScores_cons v211201022 collectScores_nil))) rfl

theorem v211200102 : readBoardAux P2 5 (⟨N2, N1, N1, N2, N0, N0, N1, N0, N2⟩ : Grid) P2 = some (ZP, some M11) :=
  readBoardAux_step P2 4 (⟨N2, N1, N1, N2, N0, N0, N1, N0, N2⟩ : Grid) P2 [M11, M12, M21] rfl rfl
    (collectScores_cons t211220102 (collectScores_cons v211202102 (collectScores_cons v211200122 collectScores_nil))) rfl

theorem t211200212 : readBoardAux P2 4 (⟨N2, N1, N1, N2, N0, N0, N2, N1, N2⟩ : Grid) P1 = some (ZP, none) :=
  rfl

theorem v211200012 : readBoardAux P2 5 (⟨N2, N1, N1, N2, N0, N0, N0, N1, N2⟩ : Grid) P2 = some (ZP, some M11) :=
  readBoardAux_step P2 4 (⟨N2, N1, N1, N2, N0, N0, N0, N1, N2⟩ : Grid) P2 [M11, M12, M20] rfl rfl
    (collectScores_cons t211220012 (collectScores_cons v211202012 (collectScores_cons t211200212 collectScores_nil))) rfl

theorem v211200002 : readBoardAux P2 6 (⟨N2, N1, N1, N2, N0, N0, N0, N0, N2⟩ : Grid) P1 = some (ZP, some M11) :=
  readBoardAux_step P2 5 (⟨N2, N1, N1, N2, N0, N0, N0, N0, N2⟩ : Grid) P1 [M11, M12, M20, M21] rfl rfl
    (collectScores_cons v211210002 (collectScores_cons v211201002 (collectScores_cons v211200102 (collectScores_cons v211200012 collectScores_nil)))) rfl

theorem v211200000 : readBoardAux P2 7 (⟨N2, N1, N1, N2, N0, N0, N0, N0, N0⟩ : Grid) P2 = some (ZP, some M11) :=
  readBoardAux_step P2 6 (⟨N2, N1, N1, N2, N0, N0, N0, N0, N0⟩ : Grid) P2 [M11, M12, M20, M21, M22] rfl rfl
    (collectScores_cons v211220000 (collectScores_cons v211202000 (collectScores_cons t211200200 (collectScores_cons v211200020 (collectScores_cons v211200002 collectScores_nil))))) rfl

theorem v210212121 : readBoardAux P2 3 (⟨N2, N1, N0, N2, N1, N2, N1, N2, N1⟩ : Grid) P2 = some (Z0, some M02) :=
  readBoardAux_step P2 2 (⟨N2, N1, N0, N2, N1, N2, N1, N2, N1⟩ : Grid) P2 [M02] rfl rfl
    (collectScores_cons t212212121 collectScores_nil) rfl

theorem v210212120 : readBoardAux P2 4 (⟨N2, N1, N0, N2, N1, N2, N1, N2, N0⟩ : Grid) P1 = some (ZM, some M02) :=
  readBoardAux_step P2 3 (⟨N2, N1, N0, N2, N1, N2, N1, N2, N0⟩ : Grid) P1 [M02, M22] rfl rfl
    (collectScores_cons t211212120 (collectScores_cons v210212121 collectScores_nil)) rfl

theorem t210212112 : readBoardAux P2 3 (⟨N2, N1, N0, N2, N1, N2, N1, N1, N2⟩ : Grid) P2 = some (ZM, none) :=
  rfl

theorem v210212102 : readBoardAux P2 4 (⟨N2, N1, N0, N2, N1, N2, N1, N0, N2⟩ : Grid) P1 = some (ZM, some M02) :=
  readBoardAux_step P2 3 (⟨N2, N1, N0, N2, N1, N2, N1, N0, N2⟩ : Grid) P1 [M02, M21] rfl rfl
    (collectScores_cons t211212102 (collectScores_cons t210212112 collectScores_nil)) rfl

theorem v210212100 : readBoardAux P2 5 (⟨N2, N1, N0, N2, N1, N2, N1, N0, N0⟩ : Grid) P2 = some (ZM, some M02) :=
  readBoardAux_step P2 4 (⟨N2, N1, N0, N2, N1, N2, N1, N0, N0⟩ : Grid) P2 [M02, M21, M22] rfl rfl
    (collectScores_cons v212212100 (collectScores_cons v210212120 (collectScores_cons v210212102 collectScores_nil))) rfl

theorem t210212010 : readBoardAux P2 5 (⟨N2, N1, N0, N2, N1, N2, N0, N1, N0⟩ : Grid) P2 = some (ZM, none) :=
  rfl

theorem t210212201 : readBoardAux P2 4 (⟨N2, N1, N0, N2, N1, N2, N2, N0, N1⟩ : Grid) P1 = some (ZP, none) :=
  rfl

theorem v210212021 : readBoardAux P2 4 (⟨N2, N1, N0, N2, N1, N2, N0, N2, N1⟩ : Grid) P1 = some (Z0, some M20) :=
  readBoardAux_step P2 3 (⟨N2, N1, N0, N2, N1, N2, N0, N2, N1⟩ : Grid) P1 [M02, M20] rfl rfl
    (collectScores_cons v211212021 (collectScores_cons v210212121 collectScores_nil)) rfl

theorem v210212001 : readBoardAux P2 5 (⟨N2, N1, N0, N2, N1, N2, N0, N0, N1⟩ : Grid) P2 = some (ZP, some M20) :=
  readBoardAux_step P2 4 (⟨N2, N1, N0, N2, N1, N2, N0, N0, N1⟩ : Grid) P2 [M02, M20, M21] rfl rfl
    (collectScores_cons v212212001 (collectScores_cons t210212201 (collectScores_cons v210212021 collectScores_nil))) rfl

theorem v210212000 : readBoardAux P2 6 (⟨N2, N1, N0, N2, N1, N2, N0, N0, N0⟩ : Grid) P1 = some (ZM, some M20) :=
  readBoardAux_step P2 5 (⟨N2, N1, N0, N2, N1, N2, N0, N0, N0⟩ : Grid) P1 [M02, M20, M21, M22] rfl rfl
    (collectScores_cons v211212000 (collectScores_cons v210212100 (collectScores_cons t210212010 (collectScores_cons v210212001 collectScores_nil)))) rfl

theorem t210210200 : readBoardAux P2 6 (⟨N2, N1, N0, N2, N1, N0, N2, N0, N0⟩ : Grid) P1 = some (ZP, none) :=
  rfl

theorem t210211220 : readBoardAux P2 4 (⟨N2, N1, N0, N2, N1, N1, N2, N2, N0⟩ : Grid) P1 = some (ZP, none) :=
  rfl

theorem v210211122 : readBoardAux P2 3 (⟨N2, N1, N0, N2, N1, N1, N1, N2, N2⟩ : Grid) P2 = some (Z0, some M02) :=
  readBoardAux_step P2 2 (⟨N2, N1, N0, N2, N1, N1, N1, N2, N2⟩ : Grid) P2 [M02] rfl rfl
    (collectScores_cons t212211122 collectScores_nil) rfl

theorem v210211022 : readBoardAux P2 4 (⟨N2, N1, N0, N2, N1, N1, N0, N2, N2⟩ : Grid) P1 = some (Z0, some M20) :=
  readBoardAux_step P2 3 (⟨N2, N1, N0, N2, N1, N1, N0, N2, N2⟩ : Grid) P1 [M02, M20] rfl rfl
    (collectScores_cons v211211022 (collectScores_cons v210211122 collectScores_nil)) rfl

theorem v210211020 : readBoardAux P2 5 (⟨N2, N1, N0, N2, N1, N1, N0, N2, N0⟩ : Grid) P2 = some (ZP, some M20) :=
  readBoardAux_step P2 4 (⟨N2, N1, N0, N2, N1, N1, N0, N2, N0⟩ : Grid) P2 [M02, M20, M22] rfl rfl
    (collectScores_cons v212211020 (collectScores_cons t210211220 (collectScores_cons v210211022 collectScores_nil))) rfl

theorem v210210122 : readBoardAux P2 4 (⟨N2, N1, N0, N2, N1, N0, N1, N2, N2⟩ : Grid) P1 = some (ZM, some M02) :=
  readBoardAux_step P2 3 (⟨N2, N1, N0, N2, N1, N0, N1, N2, N2⟩ : Grid) P1 [M02, M12] rfl rfl
    (collectScores_cons t211210122 (collectScores_cons v210211122 collectScores_nil)) rfl

theorem v210210120 : readBoardAux P2 5 (⟨N2, N1, N0, N2, N1, N0, N1, N2, N0⟩ : Grid) P2 = some (Z0, some M02) :=
  readBoardAux_step P2 4 (⟨N2, N1, N0, N2, N1, N0, N1, N2, N0⟩ : Grid) P2 [M02, M12, M22] rfl rfl
    (collectScores_cons v212210120 (collectScores_cons v210212120 (collectScores_cons v210210122 collectScores_nil))) rfl

theorem t210210221 : readBoardAux P2 4 (⟨N2, N1, N0, N2, N1, N0, N2, N2, N1⟩ : Grid) P1 = some (ZP, none) :=
  rfl

theorem v210210021 : readBoardAux P2 5 (⟨N2, N1, N0, N2, N1, N0, N0, N2, N1⟩ : Grid) P2 = some (ZP, some M20) :=
  readBoardAux_step P2 4 (⟨N2, N1, N0, N2, N1, N0, N0, N2, N1⟩ : Grid) P2 [M02, M12, M20] rfl rfl
    (collectScores_cons v212210021 (collectScores_cons v210212021 (collectScores_cons t210210221 collectScores_nil))) rfl

theorem v210210020 : readBoardAux P2 6 (⟨N2, N1, N0, N2, N1, N0, N0, N2, N0⟩ : Grid) P1 = some (Z0, some M20) :=
  readBoardAux_step P2 5 (⟨N2, N1, N0, N2, N1, N0, N0, N2, N0⟩ : Grid) P1 [M02, M12, M20, M22] rfl rfl
    (collectScores_cons v211210020 (collectScores_cons v210211020 (collectScores_cons v210210120 (collectScores_cons v210210021 collectScores_nil)))) rfl

theorem t210211202 : readBoardAux P2 4 (⟨N2, N1, N0, N2, N1, N1, N2, N0, N2⟩ : Grid) P1 = some (ZP, none) :=
  rfl

theorem v210211002 : readBoardAux P2 5 (⟨N2, N1, N0, N2, N1, N1, N0, N0, N2⟩ : Grid) P2 = some (ZP, some M20) :=
  readBoardAux_step P2 4 (⟨N2, N1, N0, N2, N1, N1, N0, N0, N2⟩ : Grid) P2 [M02, M20, M21] rfl rfl
    (collectScores_cons v212211002 (collectScores_cons t210211202 (collectScores_cons v210211022 collectScores_nil))) rfl

theorem v210210102 : readBoardAux P2 5 (⟨N2, N1, N0, N2, N1, N0, N1, N0, N2⟩ : Grid) P2 = some (ZM, some M02) :=
  readBoardAux_step P2 4 (⟨N2, N1, N0, N2, N1, N0, N1, N0, N2⟩ : Grid) P2 [M02, M12, M21] rfl rfl
    (collectScores_cons v212210102 (collectScores_cons v210212102 (collectScores_cons v210210122 collectScores_nil))) rfl

theorem t210210012 : readBoardAux P2 5 (⟨N2, N1, N0, N2, N1, N0, N0, N1, N2⟩ : Grid) P2 = some (ZM, none) :=
  rfl

theorem v210210002 : readBoardAux P2 6 (⟨N2, N1, N0, N2, N1, N0, N0, N0, N2⟩ : Grid) P1 = some (ZM, some M20) :=
  readBoardAux_step P2 5 (⟨N2, N1, N0, N2, N1, N0, N0, N0, N2⟩ : Grid) P1 [M02, M12, M20, M21] rfl rfl
    (collectScores_cons v211210002 (collectScores_cons v210211002 (collectScores_cons v210210102 (collectScores_cons t210210012 collectScores_nil)))) rfl

theorem v210210000 : readBoardAux P2 7 (⟨N2, N1, N0, N2, N1, N0, N0, N0, N0⟩ : Grid) P2 = some (ZP, some M20) :=
  readBoardAux_step P2 6 (⟨N2, N1, N0, N2, N1, N0, N0, N0, N0⟩ : Grid) P2 [M02, M12, M20, M21, M22] rfl rfl
    (collectScores_cons v212210000 (collectScores_cons v210212000 (collectScores_cons t210210200 (collectScores_cons v210210020 (collectScores_cons v210210002 collectScores_nil))))) rfl

theorem v210221121 : readBoardAux P2 3 (⟨N2, N1, N0, N2, N2, N1, N1, N2, N1⟩ : Grid) P2 = some (Z0, some M02) :=
  readBoardAux_step P2 2 (⟨N2, N1, N0, N2, N2, N1, N1, N2, N1⟩ : Grid) P2 [M02] rfl rfl
    (collectScores_cons t212221121 collectScores_nil) rfl

theorem v210221120 : readBoardAux P2 4 (⟨N2, N1, N0, N2, N2, N1, N1, N2, N0⟩ : Grid) P1 = some (Z0, some M22) :=
  readBoardAux_step P2 3 (⟨N2, N1, N0, N2, N2, N1, N1, N2, N0⟩ : Grid) P1 [M02, M22] rfl rfl
    (collectScores_cons v211221120 (collectScores_cons v210221121 collectScores_nil)) rfl

theorem t210221102 : readBoardAux P2 4 (⟨N2, N1, N0, N2, N2, N1, N1, N0, N2⟩ : Grid) P1 = some (ZP, none) :=
  rfl

theorem v210221100 : readBoardAux P2 5 (⟨N2, N1, N0, N2, N2, N1, N1, N0, N0⟩ : Grid) P2 = some (ZP, some M22) :=
  readBoardAux_step P2 4 (⟨N2, N1, N0, N2, N2, N1, N1, N0, N0⟩ : Grid) P2 [M02, M21, M22] rfl rfl
    (collectScores_cons v212221100 (collectScores_cons v210221120 (collectScores_cons t210221102 collectScores_nil))) rfl

theorem t210221210 : readBoardAux P2 4 (⟨N2, N1, N0, N2, N2, N1, N2, N1, N0⟩ : Grid) P1 = some (ZP, none) :=
  rfl

theorem t210221012 : readBoardAux P2 4 (⟨N2, N1, N0, N2, N2, N1, N0, N1, N2⟩ : Grid) P1 = some (ZP, none) :=
  rfl

theorem v210221010 : readBoardAux P2 5 (⟨N2, N1, N0, N2, N2, N1, N0, N1, N0⟩ : Grid) P2 = some (ZP, some M02) :=
  readBoardAux_step P2 4 (⟨N2, N1, N0, N2, N2, N1, N0, N1, N0⟩ : Grid) P2 [M02, M20, M22] rfl rfl
    (collectScores_cons v212221010 (collectScores_cons t210221210 (collectScores_cons t210221012 collectScores_nil))) rfl

theorem t210221201 : readBoardAux P2 4 (⟨N2, N1, N0, N2, N2, N1, N2, N0, N1⟩ : Grid) P1 = some (ZP, none) :=
  rfl

theorem v210221021 : readBoardAux P2 4 (⟨N2, N1, N0, N2, N2, N1, N0, N2, N1⟩ : Grid) P1 = some (ZM, some M02) :=
  readBoardAux_step P2 3 (⟨N2, N1, N0, N2, N2, N1, N0, N2, N1⟩ : Grid) P1 [M02, M20] rfl rfl
    (collectScores_cons t211221021 (collectScores_cons v210221121 collectScores_nil)) rfl

theorem v210221001 : readBoardAux P2 5 (⟨N2, N1, N0, N2, N2, N1, N0, N0, N1⟩ : Grid) P2 = some (ZP, some M20) :=
  readBoardAux_step P2 4 (⟨N2, N1, N0, N2, N2, N1, N0, N0, N1⟩ : Grid) P2 [M02, M20, M21] rfl rfl
    (collectScores_cons v212221001 (collectScores_cons t210221201 (collectScores_cons v210221021 collectScores_nil))) rfl

theorem v210221000 : readBoardAux P2 6 (⟨N2, N1, N0, N2, N2, N1, N0, N0, N0⟩ : Grid) P1 = some (ZP, some M02) :=
  readBoardAux_step P2 5 (⟨N2, N1, N0, N2, N2, N1, N0, N0, N0⟩ : Grid) P1 [M02, M20, M21, M22] rfl rfl
    (collectScores_cons v211221000 (collectScores_cons v210221100 (collectScores_cons v210221010 (collectScores_cons v210221001 collectScores_nil)))) rfl

theorem t210201200 : readBoardAux P2 6 (⟨N2, N1, N0, N2, N0, N1, N2, N0, N0⟩ : Grid) P1 = some (ZP, none) :=
  rfl

theorem v210201122 : readBoardAux P2 4 (⟨N2, N1, N0, N2, N0, N1, N1, N2, N2⟩ : Grid) P1 = some (Z0, some M11) :=
  readBoardAux_step P2 3 (⟨N2, N1, N0, N2, N0, N1, N1, N2, N2⟩ : Grid) P1 [M02, M11] rfl rfl
    (collectScores_cons v211201122 (collectScores_cons v210211122 collectScores_nil)) rfl

theorem v210201120 : readBoardAux P2 5 (⟨N2, N1, N0, N2, N0, N1, N1, N2, N0⟩ : Grid) P2 = some (Z0, some M02) :=
  readBoardAux_step P2 4 (⟨N2, N1, N0, N2, N0, N1, N1, N2, N0⟩ : Grid) P2 [M02, M11, M22] rfl rfl
    (collectScores_cons v212201120 (collectScores_cons v210221120 (collectScores_cons v210201122 collectScores_nil))) rfl

theorem t210201221 : readBoardAux P2 4 (⟨N2, N1, N0, N2, N0, N1, N2, N2, N1⟩ : Grid) P1 = some (ZP, none) :=
  rfl

theorem v210201021 : readBoardAux P2 5 (⟨N2, N1, N0, N2, N0, N1, N0, N2, N1⟩ : Grid) P2 = some (ZP, some M20) :=
  readBoardAux_step P2 4 (⟨N2, N1, N0, N2, N0, N1, N0, N2, N1⟩ : Grid) P2 [M02, M11, M20] rfl rfl
    (collectScores_cons v212201021 (collectScores_cons v210221021 (collectScores_cons t210201221 collectScores_nil))) rfl

theorem v210201020 : readBoardAux P2 6 (⟨N2, N1, N0, N2, N0, N1, N0, N2, N0⟩ : Grid) P1 = some (Z0, some M20) :=
  readBoardAux_step P2 5 (⟨N2, N1, N0, N2, N0, N1, N0, N2, N0⟩ : Grid) P1 [M02, M11, M20, M22] rfl rfl
    (collectScores_cons v211201020 (collectScores_cons v210211020 (collectScores_cons v210201120 (collectScores_cons v210201021 collectScores_nil)))) rfl

theorem v210201102 : readBoardAux P2 5 (⟨N2, N1, N0, N2, N0, N1, N1, N0, N2⟩ : Grid) P2 = some (ZP, some M11) :=
  readBoardAux_step P2 4 (⟨N2, N1, N0, N2, N0, N1, N1, N0, N2⟩ : Grid) P2 [M02, M11, M21] rfl rfl
    (collectScores_cons v212201102 (collectScores_cons t210221102 (collectScores_cons v210201122 collectScores_nil))) rfl

theorem t210201212 : readBoardAux P2 4 (⟨N2, N1, N0, N2, N0, N1, N2, N1, N2⟩ : Grid) P1 = some (ZP, none) :=
  rfl

theorem v210201012 : readBoardAux P2 5 (⟨N2, N1, N0, N2, N0, N1, N0, N1, N2⟩ : Grid) P2 = some (ZP, some M11) :=
  readBoardAux_step P2 4 (⟨N2, N1, N0, N2, N0, N1, N0, N1, N2⟩ : Grid) P2 [M02, M11, M20] rfl rfl
    (collectScores_cons v212201012 (collectScores_cons t210221012 (collectScores_cons t210201212 collectScores_nil))) rfl

theorem v210201002 : readBoardAux P2 6 (⟨N2, N1, N0, N2, N0, N1, N0, N0, N2⟩ : Grid) P1 = some (ZP, some M02) :=
  readBoardAux_step P2 5 (⟨N2, N1, N0, N2, N0, N1, N0, N0, N2⟩ : Grid) P1 [M02, M11, M20, M21] rfl rfl
    (collectScores_cons v211201002 (collectScores_cons v210211002 (collectScores_cons v210201102 (collectScores_cons v210201012 collectScores_nil)))) rfl

theorem v210201000 : readBoardAux P2 7 (⟨N2, N1, N0, N2, N0, N1, N0, N0, N0⟩ : Grid) P2 = some (ZP, some M11) :=
  readBoardAux_step P2 6 (⟨N2, N1, N0, N2, N0, N1, N0, N0, N0⟩ : Grid) P2 [M02, M11, M20, M21, M22] rfl rfl
    (collectScores_cons v212201000 (collectScores_cons v210221000 (collectScores_cons t210201200 (collectScores_cons v210201020 (collectScores_cons v210201002 collectScores_nil))))) rfl

theorem t210222110 : readBoardAux P2 4 (⟨N2, N1, N0, N2, N2, N2, N1, N1, N0⟩ : Grid) P1 = some (ZP, none) :=
  rfl

theorem t210220112 : readBoardAux P2 4 (⟨N2, N1, N0, N2, N2, N0, N1, N1, N2⟩ : Grid) P1 = some (ZP, none) :=
  rfl

theorem v210220110 : readBoardAux P2 5 (⟨N2, N1, N0, N2, N2, N0, N1, N1, N0⟩ : Grid) P2 = some (ZP, some M12) :=
  readBoardAux_step P2 4 (⟨N2, N1, N0, N2, N2, N0, N1, N1, N0⟩ : Grid) P2 [M02, M12, M22] rfl rfl
    (collectScores_cons v212220110 (collectScores_cons t210222110 (collectScores_cons t210220112 collectScores_nil))) rfl

theorem t210222101 : readBoardAux P2 4 (⟨N2, N1, N0, N2, N2, N2, N1, N0, N1⟩ : Grid) P1 = some (ZP, none) :=
  rfl

theorem v210220121 : readBoardAux P2 4 (⟨N2, N1, N0, N2, N2, N0, N1, N2, N1⟩ : Grid) P1 = some (Z0, some M12) :=
  readBoardAux_step P2 3 (⟨N2, N1, N0, N2, N2, N0, N1, N2, N1⟩ : Grid) P1 [M02, M12] rfl rfl
    (collectScores_cons v211220121 (collectScores_cons v210221121 collectScores_nil)) rfl

theorem v210220101 : readBoardAux P2 5 (⟨N2, N1, N0, N2, N2, N0, N1, N0, N1⟩ : Grid) P2 = some (ZP, some M12) :=
  readBoardAux_step P2 4 (⟨N2, N1, N0, N2, N2, N0, N1, N0, N1⟩ : Grid) P2 [M02, M12, M21] rfl rfl
    (collectScores_cons v212220101 (collectScores_cons t210222101 (collectScores_cons v210220121 collectScores_nil))) rfl

theorem v210220100 : readBoardAux P2 6 (⟨N2, N1, N0, N2, N2, N0, N1, N0, N0⟩ : Grid) P1 = some (ZP, some M02) :=
  readBoardAux_step P2 5 (⟨N2, N1, N0, N2, N2, N0, N1, N0, N0⟩ : Grid) P1 [M02, M12, M21, M22] rfl rfl
    (collectScores_cons v211220100 (collectScores_cons v210221100 (collectScores_cons v210220110 (collectScores_cons v210220101 collectScores_nil)))) rfl

theorem v210202112 : readBoardAux P2 4 (⟨N2, N1, N0, N2, N0, N2, N1, N1, N2⟩ : Grid) P1 = some (ZM, some M11) :=
  readBoardAux_step P2 3 (⟨N2, N1, N0, N2, N0, N2, N1, N1, N2⟩ : Grid) P1 [M02, M11] rfl rfl
    (collectScores_cons v211202112 (collectScores_cons t210212112 collectScores_nil)) rfl

theorem v210202110 : readBoardAux P2 5 (⟨N2, N1, N0, N2, N0, N2, N1, N1, N0⟩ : Grid) P2 = some (ZP, some M11) :=
  readBoardAux_step P2 4 (⟨N2, N1, N0, N2, N0, N2, N1, N1, N0⟩ : Grid) P2 [M02, M11, M22] rfl rfl
    (collectScores_cons v212202110 (collectScores_cons t210222110 (collectScores_cons v210202112 collectScores_nil))) rfl

theorem v210202121 : readBoardAux P2 4 (⟨N2, N1, N0, N2, N0, N2, N1, N2, N1⟩ : Grid) P1 = some (Z0, some M11) :=
  readBoardAux_step P2 3 (⟨N2, N1, N0, N2, N0, N2, N1, N2, N1⟩ : Grid) P1 [M02, M11] rfl rfl
    (collectScores_cons v211202121 (collectScores_cons v210212121 collectScores_nil)) rfl

theorem v210202101 : readBoardAux P2 5 (⟨N2, N1, N0, N2, N0, N2, N1, N0, N1⟩ : Grid) P2 = some (ZP, some M11) :=
  readBoardAux_step P2 4 (⟨N2, N1, N0, N2, N0, N2, N1, N0, N1⟩ : Grid) P2 [M02, M11, M21] rfl rfl
    (collectScores_cons v212202101 (collectScores_cons t210222101 (collectScores_cons v210202121 collectScores_nil))) rfl

theorem v210202100 : readBoardAux P2 6 (⟨N2, N1, N0, N2, N0, N2, N1, N0, N0⟩ : Grid) P1 = some (ZM, some M11) :=
  readBoardAux_step P2 5 (⟨N2, N1, N0, N2, N0, N2, N1, N0, N0⟩ : Grid) P1 [M02, M11, M21, M22] rfl rfl
    (collectScores_cons v211202100 (collectScores_cons v210212100 (collectScores_cons v210202110 (collectScores_cons v210202101 collectScores_nil)))) rfl

theorem v210200121 : readBoardAux P2 5 (⟨N2, N1, N0, N2, N0, N0, N1, N2, N1⟩ : Grid) P2 = some (Z0, some M02) :=
  readBoardAux_step P2 4 (⟨N2, N1, N0, N2, N0, N0, N1, N2, N1⟩ : Grid) P2 [M02, M11, M12] rfl rfl
    (collectScores_cons v212200121 (collectScores_cons v210220121 (collectScores_cons v210202121 collectScores_nil))) rfl

theorem v210200120 : readBoardAux P2 6 (⟨N2, N1, N0, N2, N0, N0, N1, N2, N0⟩ : Grid) P1 = some (Z0, some M11) :=
  readBoardAux_step P2 5 (⟨N2, N1, N0, N2, N0, N0, N1, N2, N0⟩ : Grid) P1 [M02, M11, M12, M22] rfl rfl
    (collectScores_cons v211200120 (collectScores_cons v210210120 (collectScores_cons v210201120 (collectScores_cons v210200121 collectScores_nil)))) rfl

theorem v210200112 : readBoardAux P2 5 (⟨N2, N1, N0, N2, N0, N0, N1, N1, N2⟩ : Grid) P2 = some (ZP, some M11) :=
  readBoardAux_step P2 4 (⟨N2, N1, N0, N2, N0, N0, N1, N1, N2⟩ : Grid) P2 [M02, M11, M12] rfl rfl
    (collectScores_cons v212200112 (collectScores_cons t210220112 (collectScores_cons v210202112 collectScores_nil))) rfl

theorem v210200102 : readBoardAux P2 6 (⟨N2, N1, N0, N2, N0, N0, N1, N0, N2⟩ : Grid) P1 = some (ZM, some M11) :=
  readBoardAux_step P2 5 (⟨N2, N1, N0, N2, N0, N0, N1, N0, N2⟩ : Grid) P1 [M02, M11, M12, M21] rfl rfl
    (collectScores_cons v211200102 (collectScores_cons v210210102 (collectScores_cons v210201102 (collectScores_cons v210200112 collectScores_nil)))) rfl

theorem v210200100 : readBoardAux P2 7 (⟨N2, N1, N0, N2, N0, N0, N1, N0, N0⟩ : Grid) P2 = some (ZP, some M11) :=
  readBoardAux_step P2 6 (⟨N2, N1, N0, N2, N0, N0, N1, N0, N0⟩ : Grid) P2 [M02, M11, M12, M21, M22] rfl rfl
    (collectScores_cons v212200100 (collectScores_cons v210220100 (collectScores_cons v210202100 (collectScores_cons v210200120 (collectScores_cons v210200102 collectScores_nil))))) rfl

theorem t210222011 : readBoardAux P2 4 (⟨N2, N1, N0, N2, N2, N2, N0, N1, N1⟩ : Grid) P1 = some (ZP, none) :=
  rfl

theorem t210220211 : readBoardAux P2 4 (⟨N2, N1, N0, N2, N2, N0, N2, N1, N1⟩ : Grid) P1 = some (ZP, none) :=
  rfl

theorem v210220011 : readBoardAux P2 5 (⟨N2, N1, N0, N2, N2, N0, N0, N1, N1⟩ : Grid) P2 = some (ZP, some M12) :=
  readBoardAux_step P2 4 (⟨N2, N1, N0, N2, N2, N0, N0, N1, N1⟩ : Grid) P2 [M02, M12, M20] rfl rfl
    (collectScores_cons v212220011 (collectScores_cons t210222011 (collectScores_cons t210220211 collectScores_nil))) rfl

theorem v210220010 : readBoardAux P2 6 (⟨N2, N1, N0, N2, N2, N0, N0, N1, N0⟩ : Grid) P1 = some (ZP, some M02) :=
  readBoardAux_step P2 5 (⟨N2, N1, N0, N2, N2, N0, N0, N1, N0⟩ : Grid) P1 [M02, M12, M20, M22] rfl rfl
    (collectScores_cons v211220010 (collectScores_cons v210221010 (collectScores_cons v210220110 (collectScores_cons v210220011 collectScores_nil)))) rfl

theorem t210202211 : readBoardAux P2 4 (⟨N2, N1, N0, N2, N0, N2, N2, N1, N1⟩ : Grid) P1 = some (ZP, none) :=
  rfl

theorem v210202011 : readBoardAux P2 5 (⟨N2, N1, N0, N2, N0, N2, N0, N1, N1⟩ : Grid) P2 = some (ZP, some M11) :=
  readBoardAux_step P2 4 (⟨N2, N1, N0, N2, N0, N2, N0, N1, N1⟩ : Grid) P2 [M02, M11, M20] rfl rfl
    (collectScores_cons v212202011 (collectScores_cons t210222011 (collectScores_cons t210202211 collectScores_nil))) rfl

theorem v210202010 : readBoardAux P2 6 (⟨N2, N1, N0, N2, N0, N2, N0, N1, N0⟩ : Grid) P1 = some (ZM, some M11) :=
  readBoardAux_step P2 5 (⟨N2, N1, N0, N2, N0, N2, N0, N1, N0⟩ : Grid) P1 [M02, M11, M20, M22] rfl rfl
    (collectScores_cons v211202010 (collectScores_cons t210212010 (collectScores_cons v210202110 (collectScores_cons v210202011 collectScores_nil)))) rfl

theorem t210200210 : readBoardAux P2 6 (⟨N2, N1, N0, N2, N0, N0, N2, N1, N0⟩ : Grid) P1 = some (ZP, none) :=
  rfl

theorem v210200012 : readBoardAux P2 6 (⟨N2, N1, N0, N2, N0, N0, N0, N1, N2⟩ : Grid) P1 = some (ZM, some M11) :=
  readBoardAux_step P2 5 (⟨N2, N1, N0, N2, N0, N0, N0, N1, N2⟩ : Grid) P1 [M02, M11, M12, M20] rfl rfl
    (collectScores_cons v211200012 (collectScores_cons t210210012 (collectScores_cons v210201012 (collectScores_cons v210200112 collectScores_nil)))) rfl

theorem v210200010 : readBoardAux P2 7 (⟨N2, N1, N0, N2, N0, N0, N0, N1, N0⟩ : Grid) P2 = some (ZP, some M11) :=
  readBoardAux_step P2 6 (⟨N2, N1, N0, N2, N0, N0, N0, N1, N0⟩ : Grid) P2 [M02, M11, M12, M20, M22] rfl rfl
    (collectScores_cons v212200010 (collectScores_cons v210220010 (collectScores_cons v210202010 (collectScores_cons t210200210 (collectScores_cons v210200012 collectScores_nil))))) rfl

theorem v210220001 : readBoardAux P2 6 (⟨N2, N1, N0, N2, N2, N0, N0, N0, N1⟩ : Grid) P1 = some (ZP, some M02) :=
  readBoardAux_step P2 5 (⟨N2, N1, N0, N2, N2, N0, N0, N0, N1⟩ : Grid) P1 [M02, M12, M20, M21] rfl rfl
    (collectScores_cons v211220001 (collectScores_cons v210221001 (collectScores_cons v210220101 (collectScores_cons v210220011 collectScores_nil)))) rfl

theorem v210202001 : readBoardAux P2 6 (⟨N2, N1, N0, N2, N0, N2, N0, N0, N1⟩ : Grid) P1 = some (ZP, some M02) :=
  readBoardAux_step P2 5 (⟨N2, N1, N0, N2, N0, N2, N0, N0, N1⟩ : Grid) P1 [M02, M11, M20, M21] rfl rfl
    (collectScores_cons v211202001 (collectScores_cons v210212001 (collectScores_cons v210202101 (collectScores_cons v210202011 collectScores_nil)))) rfl

theorem t210200201 : readBoardAux P2 6 (⟨N2, N1, N0, N2, N0, N0, N2, N0, N1⟩ : Grid) P1 = some (ZP, none) :=
  rfl

theorem v210200021 : readBoardAux P2 6 (⟨N2, N1, N0, N2, N0, N0, N0, N2, N1⟩ : Grid) P1 = some (Z0, some M20) :=
  readBoardAux_step P2 5 (⟨N2, N1, N0, N2, N0, N0, N0, N2, N1⟩ : Grid) P1 [M02, M11, M12, M20] rfl rfl
    (collectScores_cons v211200021 (collectScores_cons v210210021 (collectScores_cons v210201021 (collectScores_cons v210200121 collectScores_nil)))) rfl

theorem v210200001 : readBoardAux P2 7 (⟨N2, N1, N0, N2, N0, N0, N0, N0, N1⟩ : Grid) P2 = some (ZP, some M11) :=
  readBoardAux_step P2 6 (⟨N2, N1, N0, N2, N0, N0, N0, N0, N1⟩ : Grid) P2 [M02, M11, M12, M20, M21] rfl rfl
    (collectScores_cons v212200001 (collectScores_cons v210220001 (collectScores_cons v210202001 (collectScores_cons t210200201 (collectScores_cons v210200021 collectScores_nil))))) rfl

theorem v210200000 : readBoardAux P2 8 (⟨N2, N1, N0, N2, N0, N0, N0, N0, N0⟩ : Grid) P1 = some (ZP, some M02) :=
  readBoardAux_step P2 7 (⟨N2, N1, N0, N2, N0, N0, N0, N0, N0⟩ : Grid) P1 [M02, M11, M12, M20, M21, M22] rfl rfl
    (collectScores_cons v211200000 (collectScores_cons v210210000 (collectScores_cons v210201000 (collectScores_cons v210200100 (collectScores_cons v210200010 (collectScores_cons v210200001 collectScores_nil)))))) rfl

theorem t211122212 : readBoardAux P2 2 (⟨N2, N1, N1, N1, N2, N2, N2, N1, N2⟩ : Grid) P1 = some (ZP, none) :=
  rfl

theorem v211122210 : readBoardAux P2 3 (⟨N2, N1, N1, N1, N2, N2, N2, N1, N0⟩ : Grid) P2 = some (ZP, some M22) :=
  readBoardAux_step P2 2 (⟨N2, N1, N1, N1, N2, N2, N2, N1, N0⟩ : Grid) P2 [M22] rfl rfl
    (collectScores_cons t211122212 collectScores_nil) rfl

theorem t211122221 : readBoardAux P2 2 (⟨N2, N1, N1, N1, N2, N2, N2, N2, N1⟩ : Grid) P1 = some (Z0, none) :=
  rfl

theorem v211122201 : readBoardAux P2 3 (⟨N2, N1, N1, N1, N2, N2, N2, N0, N1⟩ : Grid) P2 = some (Z0, some M21) :=
  readBoardAux_step P2 2 (⟨N2, N1, N1, N1, N2, N2, N2, N0, N1⟩ : Grid) P2 [M21] rfl rfl
    (collectScores_cons t211122221 collectScores_nil) rfl

theorem v211122200 : readBoardAux P2 4 (⟨N2, N1, N1, N1, N2, N2, N2, N0, N0⟩ : Grid) P1 = some (Z0, some M22) :=
  readBoardAux_step P2 3 (⟨N2, N1, N1, N1, N2, N2, N2, N0, N0⟩ : Grid) P1 [M21, M22] rfl rfl
    (collectScores_cons v211122210 (collectScores_cons v211122201 collectScores_nil)) rfl

theorem t211122122 : readBoardAux P2 2 (⟨N2, N1, N1, N1, N2, N2, N1, N2, N2⟩ : Grid) P1 = some (ZP, none) :=
  rfl

theorem v211122120 : readBoardAux P2 3 (⟨N2, N1, N1, N1, N2, N2, N1, N2, N0⟩ : Grid) P2 = some (ZP, some M22) :=
  readBoardAux_step P2 2 (⟨N2, N1, N1, N1, N2, N2, N1, N2, N0⟩ : Grid) P2 [M22] rfl rfl
    (collectScores_cons t211122122 collectScores_nil) rfl

theorem v211122021 : readBoardAux P2 3 (⟨N2, N1, N1, N1, N2, N2, N0, N2, N1⟩ : Grid) P2 = some (Z0, some M20) :=
  readBoardAux_step P2 2 (⟨N2, N1, N1, N1, N2, N2, N0, N2, N1⟩ : Grid) P2 [M20] rfl rfl
    (collectScores_cons t211122221 collectScores_nil) rfl

theorem v211122020 : readBoardAux P2 4 (⟨N2, N1, N1, N1, N2, N2, N0, N2, N0⟩ : Grid) P1 = some (Z0, some M22) :=
  readBoardAux_step P2 3 (⟨N2, N1, N1, N1, N2, N2, N0, N2, N0⟩ : Grid) P1 [M20, M22] rfl rfl
    (collectScores_cons v211122120 (collectScores_cons v211122021 collectScores_nil)) rfl

theorem t211122002 : readBoardAux P2 4 (⟨N2, N1, N1, N1, N2, N2, N0, N0, N2⟩ : Grid) P1 = some (ZP, none) :=
  rfl

theorem v211122000 : readBoardAux P2 5 (⟨N2, N1, N1, N1, N2, N2, N0, N0, N0⟩ : Grid) P2 = some (ZP, some M22) :=
  readBoardAux_step P2 4 (⟨N2, N1, N1, N1, N2, N2, N0, N0, N0⟩ : Grid) P2 [M20, M21, M22] rfl rfl
    (collectScores_cons v211122200 (collectScores_cons v211122020 (collectScores_cons t211122002 collectScores_nil))) rfl

theorem v211022121 : readBoardAux P2 3 (⟨N2, N1, N1, N0, N2, N2, N1, N2, N1⟩ : Grid) P2 = some (ZP, some M10) :=
  readBoardAux_step P2 2 (⟨N2, N1, N1, N0, N2, N2, N1, N2, N1⟩ : Grid) P2 [M10] rfl rfl
    (collectScores_cons t211222121 collectScores_nil) rfl

theorem v211022120 : readBoardAux P2 4 (⟨N2, N1, N1, N0, N2, N2, N1, N2, N0⟩ : Grid) P1 = some (ZP, some M10) :=
  readBoardAux_step P2 3 (⟨N2, N1, N1, N0, N2, N2, N1, N2, N0⟩ : Grid) P1 [M10, M22] rfl rfl
    (collectScores_cons v211122120 (collectScores_cons v211022121 collectScores_nil)) rfl

theorem t211022102 : readBoardAux P2 4 (⟨N2, N1, N1, N0, N2, N2, N1, N0, N2⟩ : Grid) P1 = some (ZP, none) :=
  rfl

theorem v211022100 : readBoardAux P2 5 (⟨N2, N1, N1, N0, N2, N2, N1, N0, N0⟩ : Grid) P2 = some (ZP, some M10) :=
  readBoardAux_step P2 4 (⟨N2, N1, N1, N0, N2, N2, N1, N0, N0⟩ : Grid) P2 [M10, M21, M22] rfl rfl
    (collectScores_cons t211222100 (collectScores_cons v211022120 (collectScores_cons t211022102 collectScores_nil))) rfl

theorem t211222211 : readBoardAux P2 2 (⟨N2, N1, N1, N2, N2, N2, N2, N1, N1⟩ : Grid) P1 = some (ZP, none) :=
  rfl

theorem v211022211 : readBoardAux P2 3 (⟨N2, N1, N1, N0, N2, N2, N2, N1, N1⟩ : Grid) P2 = some (ZP, some M10) :=
  readBoardAux_step P2 2 (⟨N2, N1, N1, N0, N2, N2, N2, N1, N1⟩ : Grid) P2 [M10] rfl rfl
    (collectScores_cons t211222211 collectScores_nil) rfl

theorem v211022210 : readBoardAux P2 4 (⟨N2, N1, N1, N0, N2, N2, N2, N1, N0⟩ : Grid) P1 = some (ZP, some M10) :=
  readBoardAux_step P2 3 (⟨N2, N1, N1, N0, N2, N2, N2, N1, N0⟩ : Grid) P1 [M10, M22] rfl rfl
    (collectScores_cons v211122210 (collectScores_cons v211022211 collectScores_nil)) rfl

theorem t211022012 : readBoardAux P2 4 (⟨N2, N1, N1, N0, N2, N2, N0, N1, N2⟩ : Grid) P1 = some (ZP, none) :=
  rfl

theorem v211022010 : readBoardAux P2 5 (⟨N2, N1, N1, N0, N2, N2, N0, N1, N0⟩ : Grid) P2 = some (ZP, some M10) :=
  readBoardAux_step P2 4 (⟨N2, N1, N1, N0, N2, N2, N0, N1, N0⟩ : Grid) P2 [M10, M20, M22] rfl rfl
    (collectScores_cons t211222010 (collectScores_cons v211022210 (collectScores_cons t211022012 collectScores_nil))) rfl

theorem v211022201 : readBoardAux P2 4 (⟨N2, N1, N1, N0, N2, N2, N2, N0, N1⟩ : Grid) P1 = some (Z0, some M10) :=
  readBoardAux_step P2 3 (⟨N2, N1, N1, N0, N2, N2, N2, N0, N1⟩ : Grid) P1 [M10, M21] rfl rfl
    (collectScores_cons v211122201 (collectScores_cons v211022211 collectScores_nil)) rfl

theorem v211022021 : readBoardAux P2 4 (⟨N2, N1, N1, N0, N2, N2, N0, N2, N1⟩ : Grid) P1 = some (Z0, some M10) :=
  readBoardAux_step P2 3 (⟨N2, N1, N1, N0, N2, N2, N0, N2, N1⟩ : Grid) P1 [M10, M20] rfl rfl
    (collectScores_cons v211122021 (collectScores_cons v211022121 collectScores_nil)) rfl

theorem v211022001 : readBoardAux P2 5 (⟨N2, N1, N1, N0, N2, N2, N0, N0, N1⟩ : Grid) P2 = some (ZP, some M10) :=
  readBoardAux_step P2 4 (⟨N2, N1, N1, N0, N2, N2, N0, N0, N1⟩ : Grid) P2 [M10, M20, M21] rfl rfl
    (collectScores_cons t211222001 (collectScores_cons v211022201 (collectScores_cons v211022021 collectScores_nil))) rfl

theorem v211022000 : readBoardAux P2 6 (⟨N2, N1, N1, N0, N2, N2, N0, N0, N0⟩ : Grid) P1 = some (ZP, some M10) :=
  readBoardAux_step P2 5 (⟨N2, N1, N1, N0, N2, N2, N0, N0, N0⟩ : Grid) P1 [M10, M20, M21, M22] rfl rfl
    (collectScores_cons v211122000 (collectScores_cons v211022100 (collectScores_cons v211022010 (collectScores_cons v211022001 collectScores_nil)))) rfl

theorem t211121222 : readBoardAux P2 2 (⟨N2, N1, N1, N1, N2, N1, N2, N2, N2⟩ : Grid) P1 = some (ZP, none) :=
  rfl

theorem v211121220 : readBoardAux P2 3 (⟨N2, N1, N1, N1, N2, N1, N2, N2, N0⟩ : Grid) P2 = some (ZP, some M22) :=
  readBoardAux_step P2 2 (⟨N2, N1, N1, N1, N2, N1, N2, N2, N0⟩ : Grid) P2 [M22] rfl rfl
    (collectScores_cons t211121222 collectScores_nil) rfl

theorem v211120221 : readBoardAux P2 3 (⟨N2, N1, N1, N1, N2, N0, N2, N2, N1⟩ : Grid) P2 = some (Z0, some M12) :=
  readBoardAux_step P2 2 (⟨N2, N1, N1, N1, N2, N0, N2, N2, N1⟩ : Grid) P2 [M12] rfl rfl
    (collectScores_cons t211122221 collectScores_nil) rfl

theorem v211120220 : readBoardAux P2 4 (⟨N2, N1, N1, N1, N2, N0, N2, N2, N0⟩ : Grid) P1 = some (Z0, some M22) :=
  readBoardAux_step P2 3 (⟨N2, N1, N1, N1, N2, N0, N2, N2, N0⟩ : Grid) P1 [M12, M22] rfl rfl
    (collectScores_cons v211121220 (collectScores_cons v211120221 collectScores_nil)) rfl

theorem t211120202 : readBoardAux P2 4 (⟨N2, N1, N1, N1, N2, N0, N2, N0, N2⟩ : Grid) P1 = some (ZP, none) :=
  rfl

theorem v211120200 : readBoardAux P2 5 (⟨N2, N1, N1, N1, N2, N0, N2, N0, N0⟩ : Grid) P2 = some (ZP, some M22) :=
  readBoardAux_step P2 4 (⟨N2, N1, N1, N1, N2, N0, N2, N0, N0⟩ : Grid) P2 [M12, M21, M22] rfl rfl
    (collectScores_cons v211122200 (collectScores_cons v211120220 (collectScores_cons t211120202 collectScores_nil))) rfl

theorem t211021221 : readBoardAux P2 3 (⟨N2, N1, N1, N0, N2, N1, N2, N2, N1⟩ : Grid) P2 = some (ZM, none) :=
  rfl

theorem v211021220 : readBoardAux P2 4 (⟨N2, N1, N1, N0, N2, N1, N2, N2, N0⟩ : Grid) P1 = some (ZM, some M22) :=
  readBoardAux_step P2 3 (⟨N2, N1, N1, N0, N2, N1, N2, N2, N0⟩ : Grid) P1 [M10, M22] rfl rfl
    (collectScores_cons v211121220 (collectScores_cons t211021221 collectScores_nil)) rfl

theorem t211021202 : readBoardAux P2 4 (⟨N2, N1, N1, N0, N2, N1, N2, N0, N2⟩ : Grid) P1 = some (ZP, none) :=
  rfl

theorem v211021200 : readBoardAux P2 5 (⟨N2, N1, N1, N0, N2, N1, N2, N0, N0⟩ : Grid) P2 = some (ZP, some M10) :=
  readBoardAux_step P2 4 (⟨N2, N1, N1, N0, N2, N1, N2, N0, N0⟩ : Grid) P2 [M10, M21, M22] rfl rfl
    (collectScores_cons t211221200 (collectScores_cons v211021220 (collectScores_cons t211021202 collectScores_nil))) rfl

theorem t211020212 : readBoardAux P2 4 (⟨N2, N1, N1, N0, N2, N0, N2, N1, N2⟩ : Grid) P1 = some (ZP, none) :=
  rfl

theorem v211020210 : readBoardAux P2 5 (⟨N2, N1, N1, N0, N2, N0, N2, N1, N0⟩ : Grid) P2 = some (ZP, some M10) :=
  readBoardAux_step P2 4 (⟨N2, N1, N1, N0, N2, N0, N2, N1, N0⟩ : Grid) P2 [M10, M12, M22] rfl rfl
    (collectScores_cons t211220210 (collectScores_cons v211022210 (collectScores_cons t211020212 collectScores_nil))) rfl

theorem v211020221 : readBoardAux P2 4 (⟨N2, N1, N1, N0, N2, N0, N2, N2, N1⟩ : Grid) P1 = some (ZM, some M12) :=
  readBoardAux_step P2 3 (⟨N2, N1, N1, N0, N2, N0, N2, N2, N1⟩ : Grid) P1 [M10, M12] rfl rfl
    (collectScores_cons v211120221 (collectScores_cons t211021221 collectScores_nil)) rfl

theorem v211020201 : readBoardAux P2 5 (⟨N2, N1, N1, N0, N2, N0, N2, N0, N1⟩ : Grid) P2 = some (ZP, some M10) :=
  readBoardAux_step P2 4 (⟨N2, N1, N1, N0, N2, N0, N2, N0, N1⟩ : Grid) P2 [M10, M12, M21] rfl rfl
    (collectScores_cons t211220201 (collectScores_cons v211022201 (collectScores_cons v211020221 collectScores_nil))) rfl

theorem v211020200 : readBoardAux P2 6 (⟨N2, N1, N1, N0, N2, N0, N2, N0, N0⟩ : Grid) P1 = some (ZP, some M10) :=
  readBoardAux_step P2 5 (⟨N2, N1, N1, N0, N2, N0, N2, N0, N0⟩ : Grid) P1 [M10, M12, M21, M22] rfl rfl
    (collectScores_cons v211120200 (collectScores_cons v211021200 (collectScores_cons v211020210 (collectScores_cons v211020201 collectScores_nil)))) rfl

theorem t211120022 : readBoardAux P2 4 (⟨N2, N1, N1, N1, N2, N0, N0, N2, N2⟩ : Grid) P1 = some (ZP, none) :=
  rfl

theorem v211120020 : readBoardAux P2 5 (⟨N2, N1, N1, N1, N2, N0, N0, N2, N0⟩ : Grid) P2 = some (ZP, some M22) :=
  readBoardAux_step P2 4 (⟨N2, N1, N1, N1, N2, N0, N0, N2, N0⟩ : Grid) P2 [M12, M20, M22] rfl rfl
    (collectScores_cons v211122020 (collectScores_cons v211120220 (collectScores_cons t211120022 collectScores_nil))) rfl

theorem t211021022 : readBoardAux P2 4 (⟨N2, N1, N1, N0, N2, N1, N0, N2, N2⟩ : Grid) P1 = some (ZP, none) :=
  rfl

theorem v211021020 : readBoardAux P2 5 (⟨N2, N1, N1, N0, N2, N1, N0, N2, N0⟩ : Grid) P2 = some (ZP, some M22) :=
  readBoardAux_step P2 4 (⟨N2, N1, N1, N0, N2, N1, N0, N2, N0⟩ : Grid) P2 [M10, M20, M22] rfl rfl
    (collectScores_cons v211221020 (collectScores_cons v211021220 (collectScores_cons t211021022 collectScores_nil))) rfl

theorem t211020122 : readBoardAux P2 4 (⟨N2, N1, N1, N0, N2, N0, N1, N2, N2⟩ : Grid) P1 = some (ZP, none) :=
  rfl

theorem v211020120 : readBoardAux P2 5 (⟨N2, N1, N1, N0, N2, N0, N1, N2, N0⟩ : Grid) P2 = some (ZP, some M10) :=
  readBoardAux_step P2 4 (⟨N2, N1, N1, N0, N2, N0, N1, N2, N0⟩ : Grid) P2 [M10, M12, M22] rfl rfl
    (collectScores_cons v211220120 (collectScores_cons v211022120 (collectScores_cons t211020122 collectScores_nil))) rfl

theorem v211020021 : readBoardAux P2 5 (⟨N2, N1, N1, N0, N2, N0, N0, N2, N1⟩ : Grid) P2 = some (Z0, some M12) :=
  readBoardAux_step P2 4 (⟨N2, N1, N1, N0, N2, N0, N0, N2, N1⟩ : Grid) P2 [M10, M12, M20] rfl rfl
    (collectScores_cons v211220021 (collectScores_cons v211022021 (collectScores_cons v211020221 collectScores_nil))) rfl

theorem v211020020 : readBoardAux P2 6 (⟨N2, N1, N1, N0, N2, N0, N0, N2, N0⟩ : Grid) P1 = some (Z0, some M22) :=
  readBoardAux_step P2 5 (⟨N2, N1, N1, N0, N2, N0, N0, N2, N0⟩ : Grid) P1 [M10, M12, M20, M22] rfl rfl
    (collectScores_cons v211120020 (collectScores_cons v211021020 (collectScores_cons v211020120 (collectScores_cons v211020021 collectScores_nil)))) rfl

theorem t211020002 : readBoardAux P2 6 (⟨N2, N1, N1, N0, N2, N0, N0, N0, N2⟩ : Grid) P1 = some (ZP, none) :=
  rfl

theorem v211020000 : readBoardAux P2 7 (⟨N2, N1, N1, N0, N2, N0, N0, N0, N0⟩ : Grid) P2 = some (ZP, some M10) :=
  readBoardAux_step P2 6 (⟨N2, N1, N1, N0, N2, N0, N0, N0, N0⟩ : Grid) P2 [M10, M12, M20, M21, M22] rfl rfl
    (collectScores_cons v211220000 (collectScores_cons v211022000 (collectScores_cons v211020200 (collectScores_cons v211020020 (collectScores_cons t211020002 collectScores_nil))))) rfl

theorem v210122121 : readBoardAux P2 3 (⟨N2, N1, N0, N1, N2, N2, N1, N2, N1⟩ : Grid) P2 = some (Z0, some M02) :=
  readBoardAux_step P2 2 (⟨N2, N1, N0, N1, N2, N2, N1, N2, N1⟩ : Grid) P2 [M02] rfl rfl
    (collectScores_cons t212122121 collectScores_nil) rfl

theorem v210122120 : readBoardAux P2 4 (⟨N2, N1, N0, N1, N2, N2, N1, N2, N0⟩ : Grid) P1 = some (Z0, some M22) :=
  readBoardAux_step P2 3 (⟨N2, N1, N0, N1, N2, N2, N1, N2, N0⟩ : Grid) P1 [M02, M22] rfl rfl
    (collectScores_cons v211122120 (collectScores_cons v210122121 collectScores_nil)) rfl

theorem t210122102 : readBoardAux P2 4 (⟨N2, N1, N0, N1, N2, N2, N1, N0, N2⟩ : Grid) P1 = some (ZP, none) :=
  rfl

theorem v210122100 : readBoardAux P2 5 (⟨N2, N1, N0, N1, N2, N2, N1, N0, N0⟩ : Grid) P2 = some (ZP, some M22) :=
  readBoardAux_step P2 4 (⟨N2, N1, N0, N1, N2, N2, N1, N0, N0⟩ : Grid) P2 [M02, M21, M22] rfl rfl
    (collectScores_cons v212122100 (collectScores_cons v210122120 (collectScores_cons t210122102 collectScores_nil))) rfl

theorem v210122211 : readBoardAux P2 3 (⟨N2, N1, N0, N1, N2, N2, N2, N1, N1⟩ : Grid) P2 = some (ZP, some M02) :=
  readBoardAux_step P2 2 (⟨N2, N1, N0, N1, N2, N2, N2, N1, N1⟩ : Grid) P2 [M02] rfl rfl
    (collectScores_cons t212122211 collectScores_nil) rfl

theorem v210122210 : readBoardAux P2 4 (⟨N2, N1, N0, N1, N2, N2, N2, N1, N0⟩ : Grid) P1 = some (ZP, some M02) :=
  readBoardAux_step P2 3 (⟨N2, N1, N0, N1, N2, N2, N2, N1, N0⟩ : Grid) P1 [M02, M22] rfl rfl
    (collectScores_cons v211122210 (collectScores_cons v210122211 collectScores_nil)) rfl

theorem t210122012 : readBoardAux P2 4 (⟨N2, N1, N0, N1, N2, N2, N0, N1, N2⟩ : Grid) P1 = some (ZP, none) :=
  rfl

theorem v210122010 : readBoardAux P2 5 (⟨N2, N1, N0, N1, N2, N2, N0, N1, N0⟩ : Grid) P2 = some (ZP, some M02) :=
  readBoardAux_step P2 4 (⟨N2, N1, N0, N1, N2, N2, N0, N1, N0⟩ : Grid) P2 [M02, M20, M22] rfl rfl
    (collectScores_cons v212122010 (collectScores_cons v210122210 (collectScores_cons t210122012 collectScores_nil))) rfl

theorem v210122201 : readBoardAux P2 4 (⟨N2, N1, N0, N1, N2, N2, N2, N0, N1⟩ : Grid) P1 = some (Z0, some M02) :=
  readBoardAux_step P2 3 (⟨N2, N1, N0, N1, N2, N2, N2, N0, N1⟩ : Grid) P1 [M02, M21] rfl rfl
    (collectScores_cons v211122201 (collectScores_cons v210122211 collectScores_nil)) rfl

theorem v210122021 : readBoardAux P2 4 (⟨N2, N1, N0, N1, N2, N2, N0, N2, N1⟩ : Grid) P1 = some (Z0, some M02) :=
  readBoardAux_step P2 3 (⟨N2, N1, N0, N1, N2, N2, N0, N2, N1⟩ : Grid) P1 [M02, M20] rfl rfl
    (collectScores_cons v211122021 (collectScores_cons v210122121 collectScores_nil)) rfl

theorem v210122001 : readBoardAux P2 5 (⟨N2, N1, N0, N1, N2, N2, N0, N0, N1⟩ : Grid) P2 = some (Z0, some M02) :=
  readBoardAux_step P2 4 (⟨N2, N1, N0, N1, N2, N2, N0, N0, N1⟩ : Grid) P2 [M02, M20, M21] rfl rfl
    (collectScores_cons v212122001 (collectScores_cons v210122201 (collectScores_cons v210122021 collectScores_nil))) rfl

theorem v210122000 : readBoardAux P2 6 (⟨N2, N1, N0, N1, N2, N2, N0, N0, N0⟩ : Grid) P1 = some (Z0, some M22) :=
  readBoardAux_step P2 5 (⟨N2, N1, N0, N1, N2, N2, N0, N0, N0⟩ : Grid) P1 [M02, M20, M21, M22] rfl rfl
    (collectScores_cons v211122000 (collectScores_cons v210122100 (collectScores_cons v210122010 (collectScores_cons v210122001 collectScores_nil)))) rfl

theorem v210121221 : readBoardAux P2 3 (⟨N2, N1, N0, N1, N2, N1, N2, N2, N1⟩ : Grid) P2 = some (ZP, some M02) :=
  readBoardAux_step P2 2 (⟨N2, N1, N0, N1, N2, N1, N2, N2, N1⟩ : Grid) P2 [M02] rfl rfl
    (collectScores_cons t212121221 collectScores_nil) rfl

theorem v210121220 : readBoardAux P2 4 (⟨N2, N1, N0, N1, N2, N1, N2, N2, N0⟩ : Grid) P1 = some (ZP, some M02) :=
  readBoardAux_step P2 3 (⟨N2, N1, N0, N1, N2, N1, N2, N2, N0⟩ : Grid) P1 [M02, M22] rfl rfl
    (collectScores_cons v211121220 (collectScores_cons v210121221 collectScores_nil)) rfl

theorem t210121202 : readBoardAux P2 4 (⟨N2, N1, N0, N1, N2, N1, N2, N0, N2⟩ : Grid) P1 = some (ZP, none) :=
  rfl

theorem v210121200 : readBoardAux P2 5 (⟨N2, N1, N0, N1, N2, N1, N2, N0, N0⟩ : Grid) P2 = some (ZP, some M02) :=
  readBoardAux_step P2 4 (⟨N2, N1, N0, N1, N2, N1, N2, N0, N0⟩ : Grid) P2 [M02, M21, M22] rfl rfl
    (collectScores_cons t212121200 (collectScores_cons v210121220 (collectScores_cons t210121202 collectScores_nil))) rfl

theorem t210120212 : readBoardAux P2 4 (⟨N2, N1, N0, N1, N2, N0, N2, N1, N2⟩ : Grid) P1 = some (ZP, none) :=
  rfl

theorem v210120210 : readBoardAux P2 5 (⟨N2, N1, N0, N1, N2, N0, N2, N1, N0⟩ : Grid) P2 = some (ZP, some M02) :=
  readBoardAux_step P2 4 (⟨N2, N1, N0, N1, N2, N0, N2, N1, N0⟩ : Grid) P2 [M02, M12, M22] rfl rfl
    (collectScores_cons t212120210 (collectScores_cons v210122210 (collectScores_cons t210120212 collectScores_nil))) rfl

theorem v210120221 : readBoardAux P2 4 (⟨N2, N1, N0, N1, N2, N0, N2, N2, N1⟩ : Grid) P1 = some (Z0, some M02) :=
  readBoardAux_step P2 3 (⟨N2, N1, N0, N1, N2, N0, N2, N2, N1⟩ : Grid) P1 [M02, M12] rfl rfl
    (collectScores_cons v211120221 (collectScores_cons v210121221 collectScores_nil)) rfl

theorem v210120201 : readBoardAux P2 5 (⟨N2, N1, N0, N1, N2, N0, N2, N0, N1⟩ : Grid) P2 = some (ZP, some M02) :=
  readBoardAux_step P2 4 (⟨N2, N1, N0, N1, N2, N0, N2, N0, N1⟩ : Grid) P2 [M02, M12, M21] rfl rfl
    (collectScores_cons t212120201 (collectScores_cons v210122201 (collectScores_cons v210120221 collectScores_nil))) rfl

theorem v210120200 : readBoardAux P2 6 (⟨N2, N1, N0, N1, N2, N0, N2, N0, N0⟩ : Grid) P1 = some (ZP, some M02) :=
  readBoardAux_step P2 5 (⟨N2, N1, N0, N1, N2, N0, N2, N0, N0⟩ : Grid) P1 [M02, M12, M21, M22] rfl rfl
    (collectScores_cons v211120200 (collectScores_cons v210121200 (collectScores_cons v210120210 (collectScores_cons v210120201 collectScores_nil)))) rfl

theorem t210121022 : readBoardAux P2 4 (⟨N2, N1, N0, N1, N2, N1, N0, N2, N2⟩ : Grid) P1 = some (ZP, none) :=
  rfl

theorem v210121020 : readBoardAux P2 5 (⟨N2, N1, N0, N1, N2, N1, N0, N2, N0⟩ : Grid) P2 = some (ZP, some M02) :=
  readBoardAux_step P2 4 (⟨N2, N1, N0, N1, N2, N1, N0, N2, N0⟩ : Grid) P2 [M02, M20, M22] rfl rfl
    (collectScores_cons v212121020 (collectScores_cons v210121220 (collectScores_cons t210121022 collectScores_nil))) rfl

theorem t210120122 : readBoardAux P2 4 (⟨N2, N1, N0, N1, N2, N0, N1, N2, N2⟩ : Grid) P1 = some (ZP, none) :=
  rfl

theorem v210120120 : readBoardAux P2 5 (⟨N2, N1, N0, N1, N2, N0, N1, N2, N0⟩ : Grid) P2 = some (ZP, some M22) :=
  readBoardAux_step P2 4 (⟨N2, N1, N0, N1, N2, N0, N1, N2, N0⟩ : Grid) P2 [M02, M12, M22] rfl rfl
    (collectScores_cons v212120120 (collectScores_cons v210122120 (collectScores_cons t210120122 collectScores_nil))) rfl

theorem v210120021 : readBoardAux P2 5 (⟨N2, N1, N0, N1, N2, N0, N0, N2, N1⟩ : Grid) P2 = some (Z0, some M02) :=
  readBoardAux_step P2 4 (⟨N2, N1, N0, N1, N2, N0, N0, N2, N1⟩ : Grid) P2 [M02, M12, M20] rfl rfl
    (collectScores_cons v212120021 (collectScores_cons v210122021 (collectScores_cons v210120221 collectScores_nil))) rfl

theorem v210120020 : readBoardAux P2 6 (⟨N2, N1, N0, N1, N2, N0, N0, N2, N0⟩ : Grid) P1 = some (Z0, some M22) :=
  readBoardAux_step P2 5 (⟨N2, N1, N0, N1, N2, N0, N0, N2, N0⟩ : Grid) P1 [M02, M12, M20, M22] rfl rfl
    (collectScores_cons v211120020 (collectScores_cons v210121020 (collectScores_cons v210120120 (collectScores_cons v210120021 collectScores_nil)))) rfl

theorem t210120002 : readBoardAux P2 6 (⟨N2, N1, N0, N1, N2, N0, N0, N0, N2⟩ : Grid) P1 = some (ZP, none) :=
  rfl

theorem v210120000 : readBoardAux P2 7 (⟨N2, N1, N0, N1, N2, N0, N0, N0, N0⟩ : Grid) P2 = some (ZP, some M02) :=
  readBoardAux_step P2 6 (⟨N2, N1, N0, N1, N2, N0, N0, N0, N0⟩ : Grid) P2 [M02, M12, M20, M21, M22] rfl rfl
    (collectScores_cons v212120000 (collectScores_cons v210122000 (collectScores_cons v210120200 (collectScores_cons v210120020 (collectScores_cons t210120002 collectScores_nil))))) rfl

theorem t210021212 : readBoardAux P2 4 (⟨N2, N1, N0, N0, N2, N1, N2, N1, N2⟩ : Grid) P1 = some (ZP, none) :=
  rfl

theorem v210021210 : readBoardAux P2 5 (⟨N2, N1, N0, N0, N2, N1, N2, N1, N0⟩ : Grid) P2 = some (ZP, some M02) :=
  readBoardAux_step P2 4 (⟨N2, N1, N0, N0, N2, N1, N2, N1, N0⟩ : Grid) P2 [M02, M10, M22] rfl rfl
    (collectScores_cons t212021210 (collectScores_cons t210221210 (collectScores_cons t210021212 collectScores_nil))) rfl

theorem v210021221 : readBoardAux P2 4 (⟨N2, N1, N0, N0, N2, N1, N2, N2, N1⟩ : Grid) P1 = some (ZM, some M02) :=
  readBoardAux_step P2 3 (⟨N2, N1, N0, N0, N2, N1, N2, N2, N1⟩ : Grid) P1 [M02, M10] rfl rfl
    (collectScores_cons t211021221 (collectScores_cons v210121221 collectScores_nil)) rfl

theorem v210021201 : readBoardAux P2 5 (⟨N2, N1, N0, N0, N2, N1, N2, N0, N1⟩ : Grid) P2 = some (ZP, some M02) :=
  readBoardAux_step P2 4 (⟨N2, N1, N0, N0, N2, N1, N2, N0, N1⟩ : Grid) P2 [M02, M10, M21] rfl rfl
    (collectScores_cons t212021201 (collectScores_cons t210221201 (collectScores_cons v210021221 collectScores_nil))) rfl

theorem v210021200 : readBoardAux P2 6 (⟨N2, N1, N0, N0, N2, N1, N2, N0, N0⟩ : Grid) P1 = some (ZP, some M02) :=
  readBoardAux_step P2 5 (⟨N2, N1, N0, N0, N2, N1, N2, N0, N0⟩ : Grid) P1 [M02, M10, M21, M22] rfl rfl
    (collectScores_cons v211021200 (collectScores_cons v210121200 (collectScores_cons v210021210 (collectScores_cons v210021201 collectScores_nil)))) rfl

theorem t210021122 : readBoardAux P2 4 (⟨N2, N1, N0, N0, N2, N1, N1, N2, N2⟩ : Grid) P1 = some (ZP, none) :=
  rfl

theorem v210021120 : readBoardAux P2 5 (⟨N2, N1, N0, N0, N2, N1, N1, N2, N0⟩ : Grid) P2 = some (ZP, some M22) :=
  readBoardAux_step P2 4 (⟨N2, N1, N0, N0, N2, N1, N1, N2, N0⟩ : Grid) P2 [M02, M10, M22] rfl rfl
    (collectScores_cons v212021120 (collectScores_cons v210221120 (collectScores_cons t210021122 collectScores_nil))) rfl

theorem v210021021 : readBoardAux P2 5 (⟨N2, N1, N0, N0, N2, N1, N0, N2, N1⟩ : Grid) P2 = some (Z0, some M02) :=
  readBoardAux_step P2 4 (⟨N2, N1, N0, N0, N2, N1, N0, N2, N1⟩ : Grid) P2 [M02, M10, M20] rfl rfl
    (collectScores_cons v212021021 (collectScores_cons v210221021 (collectScores_cons v210021221 collectScores_nil))) rfl

theorem v210021020 : readBoardAux P2 6 (⟨N2, N1, N0, N0, N2, N1, N0, N2, N0⟩ : Grid) P1 = some (Z0, some M22) :=
  readBoardAux_step P2 5 (⟨N2, N1, N0, N0, N2, N1, N0, N2, N0⟩ : Grid) P1 [M02, M10, M20, M22] rfl rfl
    (collectScores_cons v211021020 (collectScores_cons v210121020 (collectScores_cons v210021120 (collectScores_cons v210021021 collectScores_nil)))) rfl

theorem t210021002 : readBoardAux P2 6 (⟨N2, N1, N0, N0, N2, N1, N0, N0, N2⟩ : Grid) P1 = some (ZP, none) :=
  rfl

theorem v210021000 : readBoardAux P2 7 (⟨N2, N1, N0, N0, N2, N1, N0, N0, N0⟩ : Grid) P2 = some (ZP, some M02) :=
  readBoardAux_step P2 6 (⟨N2, N1, N0, N0, N2, N1, N0, N0, N0⟩ : Grid) P2 [M02, M10, M20, M21, M22] rfl rfl
    (collectScores_cons v212021000 (collectScores_cons v210221000 (collectScores_cons v210021200 (collectScores_cons v210021020 (collectScores_cons t210021002 collectScores_nil))))) rfl

theorem t210022112 : readBoardAux P2 4 (⟨N2, N1, N0, N0, N2, N2, N1, N1, N2⟩ : Grid) P1 = some (ZP, none) :=
  rfl

theorem v210022110 : readBoardAux P2 5 (⟨N2, N1, N0, N0, N2, N2, N1, N1, N0⟩ : Grid) P2 = some (ZP, some M10) :=
  readBoardAux_step P2 4 (⟨N2, N1, N0, N0, N2, N2, N1, N1, N0⟩ : Grid) P2 [M02, M10, M22] rfl rfl
    (collectScores_cons v212022110 (collectScores_cons t210222110 (collectScores_cons t210022112 collectScores_nil))) rfl

theorem v210022121 : readBoardAux P2 4 (⟨N2, N1, N0, N0, N2, N2, N1, N2, N1⟩ : Grid) P1 = some (Z0, some M10) :=
  readBoardAux_step P2 3 (⟨N2, N1, N0, N0, N2, N2, N1, N2, N1⟩ : Grid) P1 [M02, M10] rfl rfl
    (collectScores_cons v211022121 (collectScores_cons v210122121 collectScores_nil)) rfl

theorem v210022101 : readBoardAux P2 5 (⟨N2, N1, N0, N0, N2, N2, N1, N0, N1⟩ : Grid) P2 = some (ZP, some M10) :=
  readBoardAux_step P2 4 (⟨N2, N1, N0, N0, N2, N2, N1, N0, N1⟩ : Grid) P2 [M02, M10, M21] rfl rfl
    (collectScores_cons v212022101 (collectScores_cons t210222101 (collectScores_cons v210022121 collectScores_nil))) rfl

theorem v210022100 : readBoardAux P2 6 (⟨N2, N1, N0, N0, N2, N2, N1, N0, N0⟩ : Grid) P1 = some (ZP, some M02) :=
  readBoardAux_step P2 5 (⟨N2, N1, N0, N0, N2, N2, N1, N0, N0⟩ : Grid) P1 [M02, M10, M21, M22] rfl rfl
    (collectScores_cons v211022100 (collectScores_cons v210122100 (collectScores_cons v210022110 (collectScores_cons v210022101 collectScores_nil)))) rfl

theorem v210020121 : readBoardAux P2 5 (⟨N2, N1, N0, N0, N2, N0, N1, N2, N1⟩ : Grid) P2 = some (Z0, some M02) :=
  readBoardAux_step P2 4 (⟨N2, N1, N0, N0, N2, N0, N1, N2, N1⟩ : Grid) P2 [M02, M10, M12] rfl rfl
    (collectScores_cons v212020121 (collectScores_cons v210220121 (collectScores_cons v210022121 collectScores_nil))) rfl

theorem v210020120 : readBoardAux P2 6 (⟨N2, N1, N0, N0, N2, N0, N1, N2, N0⟩ : Grid) P1 = some (Z0, some M22) :=
  readBoardAux_step P2 5 (⟨N2, N1, N0, N0, N2, N0, N1, N2, N0⟩ : Grid) P1 [M02, M10, M12, M22] rfl rfl
    (collectScores_cons v211020120 (collectScores_cons v210120120 (collectScores_cons v210021120 (collectScores_cons v210020121 collectScores_nil)))) rfl

theorem t210020102 : readBoardAux P2 6 (⟨N2, N1, N0, N0, N2, N0, N1, N0, N2⟩ : Grid) P1 = some (ZP, none) :=
  rfl

theorem v210020100 : readBoardAux P2 7 (⟨N2, N1, N0, N0, N2, N0, N1, N0, N0⟩ : Grid) P2 = some (ZP, some M10) :=
  readBoardAux_step P2 6 (⟨N2, N1, N0, N0, N2, N0, N1, N0, N0⟩ : Grid) P2 [M02, M10, M12, M21, M22] rfl rfl
    (collectScores_cons v212020100 (collectScores_cons v210220100 (collectScores_cons v210022100 (collectScores_cons v210020120 (collectScores_cons t210020102 collectScores_nil))))) rfl

theorem v210022211 : readBoardAux P2 4 (⟨N2, N1, N0, N0, N2, N2, N2, N1, N1⟩ : Grid) P1 = some (ZP, some M02) :=
  readBoardAux_step P2 3 (⟨N2, N1, N0, N0, N2, N2, N2, N1, N1⟩ : Grid) P1 [M02, M10] rfl rfl
    (collectScores_cons v211022211 (collectScores_cons v210122211 collectScores_nil)) rfl

theorem v210022011 : readBoardAux P2 5 (⟨N2, N1, N0, N0, N2, N2, N0, N1, N1⟩ : Grid) P2 = some (ZP, some M10) :=
  readBoardAux_step P2 4 (⟨N2, N1, N0, N0, N2, N2, N0, N1, N1⟩ : Grid) P2 [M02, M10, M20] rfl rfl
    (collectScores_cons v212022011 (collectScores_cons t210222011 (collectScores_cons v210022211 collectScores_nil))) rfl

theorem v210022010 : readBoardAux P2 6 (⟨N2, N1, N0, N0, N2, N2, N0, N1, N0⟩ : Grid) P1 = some (ZP, some M02) :=
  readBoardAux_step P2 5 (⟨N2, N1, N0, N0, N2, N2, N0, N1, N0⟩ : Grid) P1 [M02, M10, M20, M22] rfl rfl
    (collectScores_cons v211022010 (collectScores_cons v210122010 (collectScores_cons v210022110 (collectScores_cons v210022011 collectScores_nil)))) rfl

theorem v210020211 : readBoardAux P2 5 (⟨N2, N1, N0, N0, N2, N0, N2, N1, N1⟩ : Grid) P2 = some (ZP, some M02) :=
  readBoardAux_step P2 4 (⟨N2, N1, N0, N0, N2, N0, N2, N1, N1⟩ : Grid) P2 [M02, M10, M12] rfl rfl
    (collectScores_cons t212020211 (collectScores_cons t210220211 (collectScores_cons v210022211 collectScores_nil))) rfl

theorem v210020210 : readBoardAux P2 6 (⟨N2, N1, N0, N0, N2, N0, N2, N1, N0⟩ : Grid) P1 = some (ZP, some M02) :=
  readBoardAux_step P2 5 (⟨N2, N1, N0, N0, N2, N0, N2, N1, N0⟩ : Grid) P1 [M02, M10, M12, M22] rfl rfl
    (collectScores_cons v211020210 (collectScores_cons v210120210 (collectScores_cons v210021210 (collectScores_cons v210020211 collectScores_nil)))) rfl

theorem t210020012 : readBoardAux P2 6 (⟨N2, N1, N0, N0, N2, N0, N0, N1, N2⟩ : Grid) P1 = some (ZP, none) :=
  rfl

theorem v210020010 : readBoardAux P2 7 (⟨N2, N1, N0, N0, N2, N0, N0, N1, N0⟩ : Grid) P2 = some (ZP, some M02) :=
  readBoardAux_step P2 6 (⟨N2, N1, N0, N0, N2, N0, N0, N1, N0⟩ : Grid) P2 [M02, M10, M12, M20, M22] rfl rfl
    (collectScores_cons v212020010 (collectScores_cons v210220010 (collectScores_cons v210022010 (collectScores_cons v210020210 (collectScores_cons t210020012 collectScores_nil))))) rfl

theorem v210022001 : readBoardAux P2 6 (⟨N2, N1, N0, N0, N2, N2, N0, N0, N1⟩ : Grid) P1 = some (Z0, some M10) :=
  readBoardAux_step P2 5 (⟨N2, N1, N0, N0, N2, N2, N0, N0, N1⟩ : Grid) P1 [M02, M10, M20, M21] rfl rfl
    (collectScores_cons v211022001 (collectScores_cons v210122001 (collectScores_cons v210022101 (collectScores_cons v210022011 collectScores_nil)))) rfl

theorem v210020201 : readBoardAux P2 6 (⟨N2, N1, N0, N0, N2, N0, N2, N0, N1⟩ : Grid) P1 = some (ZP, some M02) :=
  readBoardAux_step P2 5 (⟨N2, N1, N0, N0, N2, N0, N2, N0, N1⟩ : Grid) P1 [M02, M10, M12, M21] rfl rfl
    (collectScores_cons v211020201 (collectScores_cons v210120201 (collectScores_cons v210021201 (collectScores_cons v210020211 collectScores_nil)))) rfl

theorem v210020021 : readBoardAux P2 6 (⟨N2, N1, N0, N0, N2, N0, N0, N2, N1⟩ : Grid) P1 = some (Z0, some M02) :=
  readBoardAux_step P2 5 (⟨N2, N1, N0, N0, N2, N0, N0, N2, N1⟩ : Grid) P1 [M02, M10, M12, M20] rfl rfl
    (collectScores_cons v211020021 (collectScores_cons v210120021 (collectScores_cons v210021021 (collectScores_cons v210020121 collectScores_nil)))) rfl

theorem v210020001 : readBoardAux P2 7 (⟨N2, N1, N0, N0, N2, N0, N0, N0, N1⟩ : Grid) P2 = some (ZP, some M10) :=
  readBoardAux_step P2 6 (⟨N2, N1, N0, N0, N2, N0, N0, N0, N1⟩ : Grid) P2 [M02, M10, M12, M20, M21] rfl rfl
    (collectScores_cons v212020001 (collectScores_cons v210220001 (collectScores_cons v210022001 (collectScores_cons v210020201 (collectScores_cons v210020021 collectScores_nil))))) rfl

theorem v210020000 : readBoardAux P2 8 (⟨N2, N1, N0, N0, N2, N0, N0, N0, N0⟩ : Grid) P1 = some (ZP, some M02) :=
  readBoardAux_step P2 7 (⟨N2, N1, N0, N0, N2, N0, N0, N0, N0⟩ : Grid) P1 [M02, M10, M12, M20, M21, M22] rfl rfl
    (collectScores_cons v211020000 (collectScores_cons v210120000 (collectScores_cons v210021000 (collectScores_cons v210020100 (collectScores_cons v210020010 (collectScores_cons v210020001 collectScores_nil)))))) rfl

theorem t211112222 : readBoardAux P2 2 (⟨N2, N1, N1, N1, N1, N2, N2, N2, N2⟩ : Grid) P1 = some (ZP, none) :=
  rfl

theorem v211112220 : readBoardAux P2 3 (⟨N2, N1, N1, N1, N1, N2, N2, N2, N0⟩ : Grid) P2 = some (ZP, some M22) :=
  readBoardAux_step P2 2 (⟨N2, N1, N1, N1, N1, N2, N2, N2, N0⟩ : Grid) P2 [M22] rfl rfl
    (collectScores_cons t211112222 collectScores_nil) rfl

theorem v211102221 : readBoardAux P2 3 (⟨N2, N1, N1, N1, N0, N2, N2, N2, N1⟩ : Grid) P2 = some (Z0, some M11) :=
  readBoardAux_step P2 2 (⟨N2, N1, N1, N1, N0, N2, N2, N2, N1⟩ : Grid) P2 [M11] rfl rfl
    (collectScores_cons t211122221 collectScores_nil) rfl

theorem v211102220 : readBoardAux P2 4 (⟨N2, N1, N1, N1, N0, N2, N2, N2, N0⟩ : Grid) P1 = some (Z0, some M22) :=
  readBoardAux_step P2 3 (⟨N2, N1, N1, N1, N0, N2, N2, N2, N0⟩ : Grid) P1 [M11, M22] rfl rfl
    (collectScores_cons v211112220 (collectScores_cons v211102221 collectScores_nil)) rfl

theorem v211112202 : readBoardAux P2 3 (⟨N2, N1, N1, N1, N1, N2, N2, N0, N2⟩ : Grid) P2 = some (ZP, some M21) :=
  readBoardAux_step P2 2 (⟨N2, N1, N1, N1, N1, N2, N2, N0, N2⟩ : Grid) P2 [M21] rfl rfl
    (collectScores_cons t211112222 collectScores_nil) rfl

theorem v211102212 : readBoardAux P2 3 (⟨N2, N1, N1, N1, N0, N2, N2, N1, N2⟩ : Grid) P2 = some (ZP, some M11) :=
  readBoardAux_step P2 2 (⟨N2, N1, N1, N1, N0, N2, N2, N1, N2⟩ : Grid) P2 [M11] rfl rfl
    (collectScores_cons t211122212 collectScores_nil) rfl

theorem v211102202 : readBoardAux P2 4 (⟨N2, N1, N1, N1, N0, N2, N2, N0, N2⟩ : Grid) P1 = some (ZP, some M11) :=
  readBoardAux_step P2 3 (⟨N2, N1, N1, N1, N0, N2, N2, N0, N2⟩ : Grid) P1 [M11, M21] rfl rfl
    (collectScores_cons v211112202 (collectScores_cons v211102212 collectScores_nil)) rfl

theorem v211102200 : readBoardAux P2 5 (⟨N2, N1, N1, N1, N0, N2, N2, N0, N0⟩ : Grid) P2 = some (ZP, some M22) :=
  readBoardAux_step P2 4 (⟨N2, N1, N1, N1, N0, N2, N2, N0, N0⟩ : Grid) P2 [M11, M21, M22] rfl rfl
    (collectScores_cons v211122200 (collectScores_cons v211102220 (collectScores_cons v211102202 collectScores_nil))) rfl

theorem v211012221 : readBoardAux P2 3 (⟨N2, N1, N1, N0, N1, N2, N2, N2, N1⟩ : Grid) P2 = some (ZP, some M10) :=
  readBoardAux_step P2 2 (⟨N2, N1, N1, N0, N1, N2, N2, N2, N1⟩ : Grid) P2 [M10] rfl rfl
    (collectScores_cons t211212221 collectScores_nil) rfl

theorem v211012220 : readBoardAux P2 4 (⟨N2, N1, N1, N0, N1, N2, N2, N2, N0⟩ : Grid) P1 = some (ZP, some M10) :=
  readBoardAux_step P2 3 (⟨N2, N1, N1, N0, N1, N2, N2, N2, N0⟩ : Grid) P1 [M10, M22] rfl rfl
    (collectScores_cons v211112220 (collectScores_cons v211012221 collectScores_nil)) rfl

theorem t211012212 : readBoardAux P2 3 (⟨N2, N1, N1, N0, N1, N2, N2, N1, N2⟩ : Grid) P2 = some (ZM, none) :=
  rfl

theorem v211012202 : readBoardAux P2 4 (⟨N2, N1, N1, N0, N1, N2, N2, N0, N2⟩ : Grid) P1 = some (ZM, some M21) :=
  readBoardAux_step P2 3 (⟨N2, N1, N1, N0, N1, N2, N2, N0, N2⟩ : Grid) P1 [M10, M21] rfl rfl
    (collectScores_cons v211112202 (collectScores_cons t211012212 collectScores_nil)) rfl

theorem v211012200 : readBoardAux P2 5 (⟨N2, N1, N1, N0, N1, N2, N2, N0, N0⟩ : Grid) P2 = some (ZP, some M10) :=
  readBoardAux_step P2 4 (⟨N2, N1, N1, N0, N1, N2, N2, N0, N0⟩ : Grid) P2 [M10, M21, M22] rfl rfl
    (collectScores_cons t211212200 (collectScores_cons v211012220 (collectScores_cons v211012202 collectScores_nil))) rfl

theorem v211002212 : readBoardAux P2 4 (⟨N2, N1, N1, N0, N0, N2, N2, N1, N2⟩ : Grid) P1 = some (ZM, some M11) :=
  readBoardAux_step P2 3 (⟨N2, N1, N1, N0, N0, N2, N2, N1, N2⟩ : Grid) P1 [M10, M11] rfl rfl
    (collectScores_cons v211102212 (collectScores_cons t211012212 collectScores_nil)) rfl

theorem v211002210 : readBoardAux P2 5 (⟨N2, N1, N1, N0, N0, N2, N2, N1, N0⟩ : Grid) P2 = some (ZP, some M10) :=
  readBoardAux_step P2 4 (⟨N2, N1, N1, N0, N0, N2, N2, N1, N0⟩ : Grid) P2 [M10, M11, M22] rfl rfl
    (collectScores_cons t211202210 (collectScores_cons v211022210 (collectScores_cons v211002212 collectScores_nil))) rfl

theorem v211002221 : readBoardAux P2 4 (⟨N2, N1, N1, N0, N0, N2, N2, N2, N1⟩ : Grid) P1 = some (Z0, some M10) :=
  readBoardAux_step P2 3 (⟨N2, N1, N1, N0, N0, N2, N2, N2, N1⟩ : Grid) P1 [M10, M11] rfl rfl
    (collectScores_cons v211102221 (collectScores_cons v211012221 collectScores_nil)) rfl

theorem v211002201 : readBoardAux P2 5 (⟨N2, N1, N1, N0, N0, N2, N2, N0, N1⟩ : Grid) P2 = some (ZP, some M10) :=
  readBoardAux_step P2 4 (⟨N2, N1, N1, N0, N0, N2, N2, N0, N1⟩ : Grid) P2 [M10, M11, M21] rfl rfl
    (collectScores_cons t211202201 (collectScores_cons v211022201 (collectScores_cons v211002221 collectScores_nil))) rfl

theorem v211002200 : readBoardAux P2 6 (⟨N2, N1, N1, N0, N0, N2, N2, N0, N0⟩ : Grid) P1 = some (ZP, some M10) :=
  readBoardAux_step P2 5 (⟨N2, N1, N1, N0, N0, N2, N2, N0, N0⟩ : Grid) P1 [M10, M11, M21, M22] rfl rfl
    (collectScores_cons v211102200 (collectScores_cons v211012200 (collectScores_cons v211002210 (collectScores_cons v211002201 collectScores_nil)))) rfl

theorem v211112022 : readBoardAux P2 3 (⟨N2, N1, N1, N1, N1, N2, N0, N2, N2⟩ : Grid) P2 = some (ZP, some M20) :=
  readBoardAux_step P2 2 (⟨N2, N1, N1, N1, N1, N2, N0, N2, N2⟩ : Grid) P2 [M20] rfl rfl
    (collectScores_cons t211112222 collectScores_nil) rfl

theorem v211102122 : readBoardAux P2 3 (⟨N2, N1, N1, N1, N0, N2, N1, N2, N2⟩ : Grid) P2 = some (ZP, some M11) :=
  readBoardAux_step P2 2 (⟨N2, N1, N1, N1, N0, N2, N1, N2, N2⟩ : Grid) P2 [M11] rfl rfl
    (collectScores_cons t211122122 collectScores_nil) rfl

theorem v211102022 : readBoardAux P2 4 (⟨N2, N1, N1, N1, N0, N2, N0, N2, N2⟩ : Grid) P1 = some (ZP, some M11) :=
  readBoardAux_step P2 3 (⟨N2, N1, N1, N1, N0, N2, N0, N2, N2⟩ : Grid) P1 [M11, M20] rfl rfl
    (collectScores_cons v211112022 (collectScores_cons v211102122 collectScores_nil)) rfl

theorem v211102020 : readBoardAux P2 5 (⟨N2, N1, N1, N1, N0, N2, N0, N2, N0⟩ : Grid) P2 = some (ZP, some M22) :=
  readBoardAux_step P2 4 (⟨N2, N1, N1, N1, N0, N2, N0, N2, N0⟩ : Grid) P2 [M11, M20, M22] rfl rfl
    (collectScores_cons v211122020 (collectScores_cons v211102220 (collectScores_cons v211102022 collectScores_nil))) rfl

theorem t211012122 : readBoardAux P2 3 (⟨N2, N1, N1, N0, N1, N2, N1, N2, N2⟩ : Grid) P2 = some (ZM, none) :=
  rfl

theorem v211012022 : readBoardAux P2 4 (⟨N2, N1, N1, N0, N1, N2, N0, N2, N2⟩ : Grid) P1 = some (ZM, some M20) :=
  readBoardAux_step P2 3 (⟨N2, N1, N1, N0, N1, N2, N0, N2, N2⟩ : Grid) P1 [M10, M20] rfl rfl
    (collectScores_cons v211112022 (collectScores_cons t211012122 collectScores_nil)) rfl

theorem v211012020 : readBoardAux P2 5 (⟨N2, N1, N1, N0, N1, N2, N0, N2, N0⟩ : Grid) P2 = some (ZP, some M20) :=
  readBoardAux_step P2 4 (⟨N2, N1, N1, N0, N1, N2, N0, N2, N0⟩ : Grid) P2 [M10, M20, M22] rfl rfl
    (collectScores_cons v211212020 (collectScores_cons v211012220 (collectScores_cons v211012022 collectScores_nil))) rfl

theorem v211002122 : readBoardAux P2 4 (⟨N2, N1, N1, N0, N0, N2, N1, N2, N2⟩ : Grid) P1 = some (ZM, some M11) :=
  readBoardAux_step P2 3 (⟨N2, N1, N1, N0, N0, N2, N1, N2, N2⟩ : Grid) P1 [M10, M11] rfl rfl
    (collectScores_cons v211102122 (collectScores_cons t211012122 collectScores_nil)) rfl

theorem v211002120 : readBoardAux P2 5 (⟨N2, N1, N1, N0, N0, N2, N1, N2, N0⟩ : Grid) P2 = some (ZP, some M11) :=
  readBoardAux_step P2 4 (⟨N2, N1, N1, N0, N0, N2, N1, N2, N0⟩ : Grid) P2 [M10, M11, M22] rfl rfl
    (collectScores_cons v211202120 (collectScores_cons v211022120 (collectScores_cons v211002122 collectScores_nil))) rfl

theorem v211002021 : readBoardAux P2 5 (⟨N2, N1, N1, N0, N0, N2, N0, N2, N1⟩ : Grid) P2 = some (ZP, some M10) :=
  readBoardAux_step P2 4 (⟨N2, N1, N1, N0, N0, N2, N0, N2, N1⟩ : Grid) P2 [M10, M11, M20] rfl rfl
    (collectScores_cons v211202021 (collectScores_cons v211022021 (collectScores_cons v211002221 collectScores_nil))) rfl

theorem v211002020 : readBoardAux P2 6 (⟨N2, N1, N1, N0, N0, N2, N0, N2, N0⟩ : Grid) P1 = some (ZP, some M10) :=
  readBoardAux_step P2 5 (⟨N2, N1, N1, N0, N0, N2, N0, N2, N0⟩ : Grid) P1 [M10, M11, M20, M22] rfl rfl
    (collectScores_cons v211102020 (collectScores_cons v211012020 (collectScores_cons v211002120 (collectScores_cons v211002021 collectScores_nil)))) rfl

theorem v211102002 : readBoardAux P2 5 (⟨N2, N1, N1, N1, N0, N2, N0, N0, N2⟩ : Grid) P2 = some (ZP, some M11) :=
  readBoardAux_step P2 4 (⟨N2, N1, N1, N1, N0, N2, N0, N0, N2⟩ : Grid) P2 [M11, M20, M21] rfl rfl
    (collectScores_cons t211122002 (collectScores_cons v211102202 (collectScores_cons v211102022 collectScores_nil))) rfl

theorem v211012002 : readBoardAux P2 5 (⟨N2, N1, N1, N0, N1, N2, N0, N0, N2⟩ : Grid) P2 = some (ZM, some M10) :=
  readBoardAux_step P2 4 (⟨N2, N1, N1, N0, N1, N2, N0, N0, N2⟩ : Grid) P2 [M10, M20, M21] rfl rfl
    (collectScores_cons v211212002 (collectScores_cons v211012202 (collectScores_cons v211012022 collectScores_nil))) rfl

theorem v211002102 : readBoardAux P2 5 (⟨N2, N1, N1, N0, N0, N2, N1, N0, N2⟩ : Grid) P2 = some (ZP, some M11) :=
  readBoardAux_step P2 4 (⟨N2, N1, N1, N0, N0, N2, N1, N0, N2⟩ : Grid) P2 [M10, M11, M21] rfl rfl
    (collectScores_cons v211202102 (collectScores_cons t211022102 (collectScores_cons v211002122 collectScores_nil))) rfl

theorem v211002012 : readBoardAux P2 5 (⟨N2, N1, N1, N0, N0, N2, N0, N1, N2⟩ : Grid) P2 = some (ZP, some M11) :=
  readBoardAux_step P2 4 (⟨N2, N1, N1, N0, N0, N2, N0, N1, N2⟩ : Grid) P2 [M10, M11, M20] rfl rfl
    (collectScores_cons v211202012 (collectScores_cons t211022012 (collectScores_cons v211002212 collectScores_nil))) rfl

theorem v211002002 : readBoardAux P2 6 (⟨N2, N1, N1, N0, N0, N2, N0, N0, N2⟩ : Grid) P1 = some (ZM, some M11) :=
  readBoardAux_step P2 5 (⟨N2, N1, N1, N0, N0, N2, N0, N0, N2⟩ : Grid) P1 [M10, M11, M20, M21] rfl rfl
    (collectScores_cons v211102002 (collectScores_cons v211012002 (collectScores_cons v211002102 (collectScores_cons v211002012 collectScores_nil)))) rfl

theorem v211002000 : readBoardAux P2 7 (⟨N2, N1, N1, N0, N0, N2, N0, N0, N0⟩ : Grid) P2 = some (ZP, some M10) :=
  readBoardAux_step P2 6 (⟨N2, N1, N1, N0, N0, N2, N0, N0, N0⟩ : Grid) P2 [M10, M11, M20, M21, M22] rfl rfl
    (collectScores_cons v211202000 (collectScores_cons v211022000 (collectScores_cons v211002200 (collectScores_cons v211002020 (collectScores_cons v211002002 collectScores_nil))))) rfl

theorem v210112221 : readBoardAux P2 3 (⟨N2, N1, N0, N1, N1, N2, N2, N2, N1⟩ : Grid) P2 = some (Z0, some M02) :=
  readBoardAux_step P2 2 (⟨N2, N1, N0, N1, N1, N2, N2, N2, N1⟩ : Grid) P2 [M02] rfl rfl
    (collectScores_cons t212112221 collectScores_nil) rfl

theorem v210112220 : readBoardAux P2 4 (⟨N2, N1, N0, N1, N1, N2, N2, N2, N0⟩ : Grid) P1 = some (Z0, some M22) :=
  readBoardAux_step P2 3 (⟨N2, N1, N0, N1, N1, N2, N2, N2, N0⟩ : Grid) P1 [M02, M22] rfl rfl
    (collectScores_cons v211112220 (collectScores_cons v210112221 collectScores_nil)) rfl

theorem t210112212 : readBoardAux P2 3 (⟨N2, N1, N0, N1, N1, N2, N2, N1, N2⟩ : Grid) P2 = some (ZM, none) :=
  rfl

theorem v210112202 : readBoardAux P2 4 (⟨N2, N1, N0, N1, N1, N2, N2, N0, N2⟩ : Grid) P1 = some (ZM, some M21) :=
  readBoardAux_step P2 3 (⟨N2, N1, N0, N1, N1, N2, N2, N0, N2⟩ : Grid) P1 [M02, M21] rfl rfl
    (collectScores_cons v211112202 (collectScores_cons t210112212 collectScores_nil)) rfl

theorem v210112200 : readBoardAux P2 5 (⟨N2, N1, N0, N1, N1, N2, N2, N0, N0⟩ : Grid) P2 = some (Z0, some M21) :=
  readBoardAux_step P2 4 (⟨N2, N1, N0, N1, N1, N2, N2, N0, N0⟩ : Grid) P2 [M02, M21, M22] rfl rfl
    (collectScores_cons v212112200 (collectScores_cons v210112220 (collectScores_cons v210112202 collectScores_nil))) rfl

theorem v210102212 : readBoardAux P2 4 (⟨N2, N1, N0, N1, N0, N2, N2, N1, N2⟩ : Grid) P1 = some (ZM, some M11) :=
  readBoardAux_step P2 3 (⟨N2, N1, N0, N1, N0, N2, N2, N1, N2⟩ : Grid) P1 [M02, M11] rfl rfl
    (collectScores_cons v211102212 (collectScores_cons t210112212 collectScores_nil)) rfl

theorem v210102210 : readBoardAux P2 5 (⟨N2, N1, N0, N1, N0, N2, N2, N1, N0⟩ : Grid) P2 = some (ZP, some M11) :=
  readBoardAux_step P2 4 (⟨N2, N1, N0, N1, N0, N2, N2, N1, N0⟩ : Grid) P2 [M02, M11, M22] rfl rfl
    (collectScores_cons v212102210 (collectScores_cons v210122210 (collectScores_cons v210102212 collectScores_nil))) rfl

theorem v210102221 : readBoardAux P2 4 (⟨N2, N1, N0, N1, N0, N2, N2, N2, N1⟩ : Grid) P1 = some (Z0, some M02) :=
  readBoardAux_step P2 3 (⟨N2, N1, N0, N1, N0, N2, N2, N2, N1⟩ : Grid) P1 [M02, M11] rfl rfl
    (collectScores_cons v211102221 (collectScores_cons v210112221 collectScores_nil)) rfl

theorem v210102201 : readBoardAux P2 5 (⟨N2, N1, N0, N1, N0, N2, N2, N0, N1⟩ : Grid) P2 = some (Z0, some M02) :=
  readBoardAux_step P2 4 (⟨N2, N1, N0, N1, N0, N2, N2, N0, N1⟩ : Grid) P2 [M02, M11, M21] rfl rfl
    (collectScores_cons v212102201 (collectScores_cons v210122201 (collectScores_cons v210102221 collectScores_nil))) rfl

theorem v210102200 : readBoardAux P2 6 (⟨N2, N1, N0, N1, N0, N2, N2, N0, N0⟩ : Grid) P1 = some (Z0, some M11) :=
  readBoardAux_step P2 5 (⟨N2, N1, N0, N1, N0, N2, N2, N0, N0⟩ : Grid) P1 [M02, M11, M21, M22] rfl rfl
    (collectScores_cons v211102200 (collectScores_cons v210112200 (collectScores_cons v210102210 (collectScores_cons v210102201 collectScores_nil)))) rfl

theorem v210112122 : readBoardAux P2 3 (⟨N2, N1, N0, N1, N1, N2, N1, N2, N2⟩ : Grid) P2 = some (ZP, some M02) :=
  readBoardAux_step P2 2 (⟨N2, N1, N0, N1, N1, N2, N1, N2, N2⟩ : Grid) P2 [M02] rfl rfl
    (collectScores_cons t212112122 collectScores_nil) rfl

theorem v210112022 : readBoardAux P2 4 (⟨N2, N1, N0, N1, N1, N2, N0, N2, N2⟩ : Grid) P1 = some (ZP, some M02) :=
  readBoardAux_step P2 3 (⟨N2, N1, N0, N1, N1, N2, N0, N2, N2⟩ : Grid) P1 [M02, M20] rfl rfl
    (collectScores_cons v211112022 (collectScores_cons v210112122 collectScores_nil)) rfl

theorem v210112020 : readBoardAux P2 5 (⟨N2, N1, N0, N1, N1, N2, N0, N2, N0⟩ : Grid) P2 = some (ZP, some M22) :=
  readBoardAux_step P2 4 (⟨N2, N1, N0, N1, N1, N2, N0, N2, N0⟩ : Grid) P2 [M02, M20, M22] rfl rfl
    (collectScores_cons v212112020 (collectScores_cons v210112220 (collectScores_cons v210112022 collectScores_nil))) rfl

theorem v210102122 : readBoardAux P2 4 (⟨N2, N1, N0, N1, N0, N2, N1, N2, N2⟩ : Grid) P1 = some (ZP, some M02) :=
  readBoardAux_step P2 3 (⟨N2, N1, N0, N1, N0, N2, N1, N2, N2⟩ : Grid) P1 [M02, M11] rfl rfl
    (collectScores_cons v211102122 (collectScores_cons v210112122 collectScores_nil)) rfl

theorem v210102120 : readBoardAux P2 5 (⟨N2, N1, N0, N1, N0, N2, N1, N2, N0⟩ : Grid) P2 = some (ZP, some M22) :=
  readBoardAux_step P2 4 (⟨N2, N1, N0, N1, N0, N2, N1, N2, N0⟩ : Grid) P2 [M02, M11, M22] rfl rfl
    (collectScores_cons v212102120 (collectScores_cons v210122120 (collectScores_cons v210102122 collectScores_nil))) rfl

theorem v210102021 : readBoardAux P2 5 (⟨N2, N1, N0, N1, N0, N2, N0, N2, N1⟩ : Grid) P2 = some (Z0, some M02) :=
  readBoardAux_step P2 4 (⟨N2, N1, N0, N1, N0, N2, N0, N2, N1⟩ : Grid) P2 [M02, M11, M20] rfl rfl
    (collectScores_cons v212102021 (collectScores_cons v210122021 (collectScores_cons v210102221 collectScores_nil))) rfl

theorem v210102020 : readBoardAux P2 6 (⟨N2, N1, N0, N1, N0, N2, N0, N2, N0⟩ : Grid) P1 = some (Z0, some M22) :=
  readBoardAux_step P2 5 (⟨N2, N1, N0, N1, N0, N2, N0, N2, N0⟩ : Grid) P1 [M02, M11, M20, M22] rfl rfl
    (collectScores_cons v211102020 (collectScores_cons v210112020 (collectScores_cons v210102120 (collectScores_cons v210102021 collectScores_nil)))) rfl

theorem v210112002 : readBoardAux P2 5 (⟨N2, N1, N0, N1, N1, N2, N0, N0, N2⟩ : Grid) P2 = some (ZP, some M02) :=
  readBoardAux_step P2 4 (⟨N2, N1, N0, N1, N1, N2, N0, N0, N2⟩ : Grid) P2 [M02, M20, M21] rfl rfl
    (collectScores_cons t212112002 (collectScores_cons v210112202 (collectScores_cons v210112022 collectScores_nil))) rfl

theorem v210102102 : readBoardAux P2 5 (⟨N2, N1, N0, N1, N0, N2, N1, N0, N2⟩ : Grid) P2 = some (ZP, some M02) :=
  readBoardAux_step P2 4 (⟨N2, N1, N0, N1, N0, N2, N1, N0, N2⟩ : Grid) P2 [M02, M11, M21] rfl rfl
    (collectScores_cons t212102102 (collectScores_cons t210122102 (collectScores_cons v210102122 collectScores_nil))) rfl

theorem v210102012 : readBoardAux P2 5 (⟨N2, N1, N0, N1, N0, N2, N0, N1, N2⟩ : Grid) P2 = some (ZP, some M02) :=
  readBoardAux_step P2 4 (⟨N2, N1, N0, N1, N0, N2, N0, N1, N2⟩ : Grid) P2 [M02, M11, M20] rfl rfl
    (collectScores_cons t212102012 (collectScores_cons t210122012 (collectScores_cons v210102212 collectScores_nil))) rfl

theorem v210102002 : readBoardAux P2 6 (⟨N2, N1, N0, N1, N0, N2, N0, N0, N2⟩ : Grid) P1 = some (ZP, some M02) :=
  readBoardAux_step P2 5 (⟨N2, N1, N0, N1, N0, N2, N0, N0, N2⟩ : Grid) P1 [M02, M11, M20, M21] rfl rfl
    (collectScores_cons v211102002 (collectScores_cons v210112002 (collectScores_cons v210102102 (collectScores_cons v210102012 collectScores_nil)))) rfl

theorem v210102000 : readBoardAux P2 7 (⟨N2, N1, N0, N1, N0, N2, N0, N0, N0⟩ : Grid) P2 = some (ZP, some M22) :=
  readBoardAux_step P2 6 (⟨N2, N1, N0, N1, N0, N2, N0, N0, N0⟩ : Grid) P2 [M02, M11, M20, M21, M22] rfl rfl
    (collectScores_cons v212102000 (collectScores_cons v210122000 (collectScores_cons v210102200 (collectScores_cons v210102020 (collectScores_cons v210102002 collectScores_nil))))) rfl

theorem t210012210 : readBoardAux P2 5 (⟨N2, N1, N0, N0, N1, N2, N2, N1, N0⟩ : Grid) P2 = some (ZM, none) :=
  rfl

theorem v210012221 : readBoardAux P2 4 (⟨N2, N1, N0, N0, N1, N2, N2, N2, N1⟩ : Grid) P1 = some (Z0, some M10) :=
  readBoardAux_step P2 3 (⟨N2, N1, N0, N0, N1, N2, N2, N2, N1⟩ : Grid) P1 [M02, M10] rfl rfl
    (collectScores_cons v211012221 (collectScores_cons v210112221 collectScores_nil)) rfl

theorem v210012201 : readBoardAux P2 5 (⟨N2, N1, N0, N0, N1, N2, N2, N0, N1⟩ : Grid) P2 = some (ZP, some M10) :=
  readBoardAux_step P2 4 (⟨N2, N1, N0, N0, N1, N2, N2, N0, N1⟩ : Grid) P2 [M02, M10, M21] rfl rfl
    (collectScores_cons v212012201 (collectScores_cons t210212201 (collectScores_cons v210012221 collectScores_nil))) rfl

theorem v210012200 : readBoardAux P2 6 (⟨N2, N1, N0, N0, N1, N2, N2, N0, N0⟩ : Grid) P1 = some (ZM, some M21) :=
  readBoardAux_step P2 5 (⟨N2, N1, N0, N0, N1, N2, N2, N0, N0⟩ : Grid) P1 [M02, M10, M21, M22] rfl rfl
    (collectScores_cons v211012200 (collectScores_cons v210112200 (collectScores_cons t210012210 (collectScores_cons v210012201 collectScores_nil)))) rfl

theorem v210012122 : readBoardAux P2 4 (⟨N2, N1, N0, N0, N1, N2, N1, N2, N2⟩ : Grid) P1 = some (ZM, some M02) :=
  readBoardAux_step P2 3 (⟨N2, N1, N0, N0, N1, N2, N1, N2, N2⟩ : Grid) P1 [M02, M10] rfl rfl
    (collectScores_cons t211012122 (collectScores_cons v210112122 collectScores_nil)) rfl

theorem v210012120 : readBoardAux P2 5 (⟨N2, N1, N0, N0, N1, N2, N1, N2, N0⟩ : Grid) P2 = some (Z0, some M02) :=
  readBoardAux_step P2 4 (⟨N2, N1, N0, N0, N1, N2, N1, N2, N0⟩ : Grid) P2 [M02, M10, M22] rfl rfl
    (collectScores_cons v212012120 (collectScores_cons v210212120 (collectScores_cons v210012122 collectScores_nil))) rfl

theorem v210012021 : readBoardAux P2 5 (⟨N2, N1, N0, N0, N1, N2, N0, N2, N1⟩ : Grid) P2 = some (Z0, some M02) :=
  readBoardAux_step P2 4 (⟨N2, N1, N0, N0, N1, N2, N0, N2, N1⟩ : Grid) P2 [M02, M10, M20] rfl rfl
    (collectScores_cons v212012021 (collectScores_cons v210212021 (collectScores_cons v210012221 collectScores_nil))) rfl

theorem v210012020 : readBoardAux P2 6 (⟨N2, N1, N0, N0, N1, N2, N0, N2, N0⟩ : Grid) P1 = some (Z0, some M20) :=
  readBoardAux_step P2 5 (⟨N2, N1, N0, N0, N1, N2, N0, N2, N0⟩ : Grid) P1 [M02, M10, M20, M22] rfl rfl
    (collectScores_cons v211012020 (collectScores_cons v210112020 (collectScores_cons v210012120 (collectScores_cons v210012021 collectScores_nil)))) rfl

theorem v210012102 : readBoardAux P2 5 (⟨N2, N1, N0, N0, N1, N2, N1, N0, N2⟩ : Grid) P2 = some (ZP, some M02) :=
  readBoardAux_step P2 4 (⟨N2, N1, N0, N0, N1, N2, N1, N0, N2⟩ : Grid) P2 [M02, M10, M21] rfl rfl
    (collectScores_cons t212012102 (collectScores_cons v210212102 (collectScores_cons v210012122 collectScores_nil))) rfl

theorem t210012012 : readBoardAux P2 5 (⟨N2, N1, N0, N0, N1, N2, N0, N1, N2⟩ : Grid) P2 = some (ZM, none) :=
  rfl

theorem v210012002 : readBoardAux P2 6 (⟨N2, N1, N0, N0, N1, N2, N0, N0, N2⟩ : Grid) P1 = some (ZM, some M02) :=
  readBoardAux_step P2 5 (⟨N2, N1, N0, N0, N1, N2, N0, N0, N2⟩ : Grid) P1 [M02, M10, M20, M21] rfl rfl
    (collectScores_cons v211012002 (collectScores_cons v210112002 (collectScores_cons v210012102 (collectScores_cons t210012012 collectScores_nil)))) rfl

theorem v210012000 : readBoardAux P2 7 (⟨N2, N1, N0, N0, N1, N2, N0, N0, N0⟩ : Grid) P2 = some (Z0, some M21) :=
  readBoardAux_step P2 6 (⟨N2, N1, N0, N0, N1, N2, N0, N0, N0⟩ : Grid) P2 [M02, M10, M20, M21, M22] rfl rfl
    (collectScores_cons v212012000 (collectScores_cons v210212000 (collectScores_cons v210012200 (collectScores_cons v210012020 (collectScores_cons v210012002 collectScores_nil))))) rfl

theorem v210002121 : readBoardAux P2 5 (⟨N2, N1, N0, N0, N0, N2, N1, N2, N1⟩ : Grid) P2 = some (Z0, some M02) :=
  readBoardAux_step P2 4 (⟨N2, N1, N0, N0, N0, N2, N1, N2, N1⟩ : Grid) P2 [M02, M10, M11] rfl rfl
    (collectScores_cons v212002121 (collectScores_cons v210202121 (collectScores_cons v210022121 collectScores_nil))) rfl

theorem v210002120 : readBoardAux P2 6 (⟨N2, N1, N0, N0, N0, N2, N1, N2, N0⟩ : Grid) P1 = some (Z0, some M11) :=
  readBoardAux_step P2 5 (⟨N2, N1, N0, N0, N0, N2, N1, N2, N0⟩ : Grid) P1 [M02, M10, M11, M22] rfl rfl
    (collectScores_cons v211002120 (collectScores_cons v210102120 (collectScores_cons v210012120 (collectScores_cons v210002121 collectScores_nil)))) rfl

theorem v210002112 : readBoardAux P2 5 (⟨N2, N1, N0, N0, N0, N2, N1, N1, N2⟩ : Grid) P2 = some (ZP, some M02) :=
  readBoardAux_step P2 4 (⟨N2, N1, N0, N0, N0, N2, N1, N1, N2⟩ : Grid) P2 [M02, M10, M11] rfl rfl
    (collectScores_cons t212002112 (collectScores_cons v210202112 (collectScores_cons t210022112 collectScores_nil))) rfl

theorem v210002102 : readBoardAux P2 6 (⟨N2, N1, N0, N0, N0, N2, N1, N0, N2⟩ : Grid) P1 = some (ZP, some M02) :=
  readBoardAux_step P2 5 (⟨N2, N1, N0, N0, N0, N2, N1, N0, N2⟩ : Grid) P1 [M02, M10, M11, M21] rfl rfl
    (collectScores_cons v211002102 (collectScores_cons v210102102 (collectScores_cons v210012102 (collectScores_cons v210002112 collectScores_nil)))) rfl

theorem v210002100 : readBoardAux P2 7 (⟨N2, N1, N0, N0, N0, N2, N1, N0, N0⟩ : Grid) P2 = some (ZP, some M11) :=
  readBoardAux_step P2 6 (⟨N2, N1, N0, N0, N0, N2, N1, N0, N0⟩ : Grid) P2 [M02, M10, M11, M21, M22] rfl rfl
    (collectScores_cons v212002100 (collectScores_cons v210202100 (collectScores_cons v210022100 (collectScores_cons v210002120 (collectScores_cons v210002102 collectScores_nil))))) rfl

theorem v210002211 : readBoardAux P2 5 (⟨N2, N1, N0, N0, N0, N2, N2, N1, N1⟩ : Grid) P2 = some (ZP, some M10) :=
  readBoardAux_step P2 4 (⟨N2, N1, N0, N0, N0, N2, N2, N1, N1⟩ : Grid) P2 [M02, M10, M11] rfl rfl
    (collectScores_cons v212002211 (collectScores_cons t210202211 (collectScores_cons v210022211 collectScores_nil))) rfl

theorem v210002210 : readBoardAux P2 6 (⟨N2, N1, N0, N0, N0, N2, N2, N1, N0⟩ : Grid) P1 = some (ZM, some M11) :=
  readBoardAux_step P2 5 (⟨N2, N1, N0, N0, N0, N2, N2, N1, N0⟩ : Grid) P1 [M02, M10, M11, M22] rfl rfl
    (collectScores_cons v211002210 (collectScores_cons v210102210 (collectScores_cons t210012210 (collectScores_cons v210002211 collectScores_nil)))) rfl

theorem v210002012 : readBoardAux P2 6 (⟨N2, N1, N0, N0, N0, N2, N0, N1, N2⟩ : Grid) P1 = some (ZM, some M11) :=
  readBoardAux_step P2 5 (⟨N2, N1, N0, N0, N0, N2, N0, N1, N2⟩ : Grid) P1 [M02, M10, M11, M20] rfl rfl
    (collectScores_cons v211002012 (collectScores_cons v210102012 (collectScores_cons t210012012 (collectScores_cons v210002112 collectScores_nil)))) rfl

theorem v210002010 : readBoardAux P2 7 (⟨N2, N1, N0, N0, N0, N2, N0, N1, N0⟩ : Grid) P2 = some (ZP, some M11) :=
  readBoardAux_step P2 6 (⟨N2, N1, N0, N0, N0, N2, N0, N1, N0⟩ : Grid) P2 [M02, M10, M11, M20, M22] rfl rfl
    (collectScores_cons v212002010 (collectScores_cons v210202010 (collectScores_cons v210022010 (collectScores_cons v210002210 (collectScores_cons v210002012 collectScores_nil))))) rfl

theorem v210002201 : readBoardAux P2 6 (⟨N2, N1, N0, N0, N0, N2, N2, N0, N1⟩ : Grid) P1 = some (Z0, some M10) :=
  readBoardAux_step P2 5 (⟨N2, N1, N0, N0, N0, N2, N2, N0, N1⟩ : Grid) P1 [M02, M10, M11, M21] rfl rfl
    (collectScores_cons v211002201 (collectScores_cons v210102201 (collectScores_cons v210012201 (collectScores_cons v210002211 collectScores_nil)))) rfl

theorem v210002021 : readBoardAux P2 6 (⟨N2, N1, N0, N0, N0, N2, N0, N2, N1⟩ : Grid) P1 = some (Z0, some M10) :=
  readBoardAux_step P2 5 (⟨N2, N1, N0, N0, N0, N2, N0, N2, N1⟩ : Grid) P1 [M02, M10, M11, M20] rfl rfl
    (collectScores_cons v211002021 (collectScores_cons v210102021 (collectScores_cons v210012021 (collectScores_cons v210002121 collectScores_nil)))) rfl

theorem v210002001 : readBoardAux P2 7 (⟨N2, N1, N0, N0, N0, N2, N0, N0, N1⟩ : Grid) P2 = some (ZP, some M10) :=
  readBoardAux_step P2 6 (⟨N2, N1, N0, N0, N0, N2, N0, N0, N1⟩ : Grid) P2 [M02, M10, M11, M20, M21] rfl rfl
    (collectScores_cons v212002001 (collectScores_cons v210202001 (collectScores_cons v210022001 (collectScores_cons v210002201 (collectScores_cons v210002021 collectScores_nil))))) rfl

theorem v210002000 : readBoardAux P2 8 (⟨N2, N1, N0, N0, N0, N2, N0, N0, N0⟩ : Grid) P1 = some (Z0, some M11) :=
  readBoardAux_step P2 7 (⟨N2, N1, N0, N0, N0, N2, N0, N0, N0⟩ : Grid) P1 [M02, M10, M11, M20, M21, M22] rfl rfl
    (collectScores_cons v211002000 (collectScores_cons v210102000 (collectScores_cons v210012000 (collectScores_cons v210002100 (collectScores_cons v210002010 (collectScores_cons v210002001 collectScores_nil)))))) rfl

theorem t211100222 : readBoardAux P2 4 (⟨N2, N1, N1, N1, N0, N0, N2, N2, N2⟩ : Grid) P1 = some (ZP, none) :=
  rfl

theorem v211100220 : readBoardAux P2 5 (⟨N2, N1, N1, N1, N0, N0, N2, N2, N0⟩ : Grid) P2 = some (ZP, some M22) :=
  readBoardAux_step P2 4 (⟨N2, N1, N1, N1, N0, N0, N2, N2, N0⟩ : Grid) P2 [M11, M12, M22] rfl rfl
    (collectScores_cons v211120220 (collectScores_cons v211102220 (collectScores_cons t211100222 collectScores_nil))) rfl

theorem t211010222 : readBoardAux P2 4 (⟨N2, N1, N1, N0, N1, N0, N2, N2, N2⟩ : Grid) P1 = some (ZP, none) :=
  rfl

theorem v211010220 : readBoardAux P2 5 (⟨N2, N1, N1, N0, N1, N0, N2, N2, N0⟩ : Grid) P2 = some (ZP, some M10) :=
  readBoardAux_step P2 4 (⟨N2, N1, N1, N0, N1, N0, N2, N2, N0⟩ : Grid) P2 [M10, M12, M22] rfl rfl
    (collectScores_cons t211210220 (collectScores_cons v211012220 (collectScores_cons t211010222 collectScores_nil))) rfl

theorem t211001222 : readBoardAux P2 4 (⟨N2, N1, N1, N0, N0, N1, N2, N2, N2⟩ : Grid) P1 = some (ZP, none) :=
  rfl

theorem v211001220 : readBoardAux P2 5 (⟨N2, N1, N1, N0, N0, N1, N2, N2, N0⟩ : Grid) P2 = some (ZP, some M10) :=
  readBoardAux_step P2 4 (⟨N2, N1, N1, N0, N0, N1, N2, N2, N0⟩ : Grid) P2 [M10, M11, M22] rfl rfl
    (collectScores_cons t211201220 (collectScores_cons v211021220 (collectScores_cons t211001222 collectScores_nil))) rfl

theorem v211000221 : readBoardAux P2 5 (⟨N2, N1, N1, N0, N0, N0, N2, N2, N1⟩ : Grid) P2 = some (ZP, some M10) :=
  readBoardAux_step P2 4 (⟨N2, N1, N1, N0, N0, N0, N2, N2, N1⟩ : Grid) P2 [M10, M11, M12] rfl rfl
    (collectScores_cons t211200221 (collectScores_cons v211020221 (collectScores_cons v211002221 collectScores_nil))) rfl

theorem v211000220 : readBoardAux P2 6 (⟨N2, N1, N1, N0, N0, N0, N2, N2, N0⟩ : Grid) P1 = some (ZP, some M10) :=
  readBoardAux_step P2 5 (⟨N2, N1, N1, N0, N0, N0, N2, N2, N0⟩ : Grid) P1 [M10, M11, M12, M22] rfl rfl
    (collectScores_cons v211100220 (collectScores_cons v211010220 (collectScores_cons v211001220 (collectScores_cons v211000221 collectScores_nil)))) rfl

theorem v211100202 : readBoardAux P2 5 (⟨N2, N1, N1, N1, N0, N0, N2, N0, N2⟩ : Grid) P2 = some (ZP, some M11) :=
  readBoardAux_step P2 4 (⟨N2, N1, N1, N1, N0, N0, N2, N0, N2⟩ : Grid) P2 [M11, M12, M21] rfl rfl
    (collectScores_cons t211120202 (collectScores_cons v211102202 (collectScores_cons t211100222 collectScores_nil))) rfl

theorem v211010202 : readBoardAux P2 5 (⟨N2, N1, N1, N0, N1, N0, N2, N0, N2⟩ : Grid) P2 = some (ZP, some M10) :=
  readBoardAux_step P2 4 (⟨N2, N1, N1, N0, N1, N0, N2, N0, N2⟩ : Grid) P2 [M10, M12, M21] rfl rfl
    (collectScores_cons t211210202 (collectScores_cons v211012202 (collectScores_cons t211010222 collectScores_nil))) rfl

theorem v211001202 : readBoardAux P2 5 (⟨N2, N1, N1, N0, N0, N1, N2, N0, N2⟩ : Grid) P2 = some (ZP, some M10) :=
  readBoardAux_step P2 4 (⟨N2, N1, N1, N0, N0, N1, N2, N0, N2⟩ : Grid) P2 [M10, M11, M21] rfl rfl
    (collectScores_cons t211201202 (collectScores_cons t211021202 (collectScores_cons t211001222 collectScores_nil))) rfl

theorem v211000212 : readBoardAux P2 5 (⟨N2, N1, N1, N0, N0, N0, N2, N1, N2⟩ : Grid) P2 = some (ZP, some M10) :=
  readBoardAux_step P2 4 (⟨N2, N1, N1, N0, N0, N0, N2, N1, N2⟩ : Grid) P2 [M10, M11, M12] rfl rfl
    (collectScores_cons t211200212 (collectScores_cons t211020212 (collectScores_cons v211002212 collectScores_nil))) rfl

theorem v211000202 : readBoardAux P2 6 (⟨N2, N1, N1, N0, N0, N0, N2, N0, N2⟩ : Grid) P1 = some (ZP, some M10) :=
  readBoardAux_step P2 5 (⟨N2, N1, N1, N0, N0, N0, N2, N0, N2⟩ : Grid) P1 [M10, M11, M12, M21] rfl rfl
    (collectScores_cons v211100202 (collectScores_cons v211010202 (collectScores_cons v211001202 (collectScores_cons v211000212 collectScores_nil)))) rfl

theorem v211000200 : readBoardAux P2 7 (⟨N2, N1, N1, N0, N0, N0, N2, N0, N0⟩ : Grid) P2 = some (ZP, some M10) :=
  readBoardAux_step P2 6 (⟨N2, N1, N1, N0, N0, N0, N2, N0, N0⟩ : Grid) P2 [M10, M11, M12, M21, M22] rfl rfl
    (collectScores_cons t211200200 (collectScores_cons v211020200 (collectScores_cons v211002200 (collectScores_cons v211000220 (collectScores_cons v211000202 collectScores_nil))))) rfl

theorem t210110222 : readBoardAux P2 4 (⟨N2, N1, N0, N1, N1, N0, N2, N2, N2⟩ : Grid) P1 = some (ZP, none) :=
  rfl

theorem v210110220 : readBoardAux P2 5 (⟨N2, N1, N0, N1, N1, N0, N2, N2, N0⟩ : Grid) P2 = some (ZP, some M22) :=
  readBoardAux_step P2 4 (⟨N2, N1, N0, N1, N1, N0, N2, N2, N0⟩ : Grid) P2 [M02, M12, M22] rfl rfl
    (collectScores_cons v212110220 (collectScores_cons v210112220 (collectScores_cons t210110222 collectScores_nil))) rfl

theorem t210101222 : readBoardAux P2 4 (⟨N2, N1, N0, N1, N0, N1, N2, N2, N2⟩ : Grid) P1 = some (ZP, none) :=
  rfl

theorem v210101220 : readBoardAux P2 5 (⟨N2, N1, N0, N1, N0, N1, N2, N2, N0⟩ : Grid) P2 = some (ZP, some M11) :=
  readBoardAux_step P2 4 (⟨N2, N1, N0, N1, N0, N1, N2, N2, N0⟩ : Grid) P2 [M02, M11, M22] rfl rfl
    (collectScores_cons v212101220 (collectScores_cons v210121220 (collectScores_cons t210101222 collectScores_nil))) rfl

theorem v210100221 : readBoardAux P2 5 (⟨N2, N1, N0, N1, N0, N0, N2, N2, N1⟩ : Grid) P2 = some (Z0, some M02) :=
  readBoardAux_step P2 4 (⟨N2, N1, N0, N1, N0, N0, N2, N2, N1⟩ : Grid) P2 [M02, M11, M12] rfl rfl
    (collectScores_cons v212100221 (collectScores_cons v210120221 (collectScores_cons v210102221 collectScores_nil))) rfl

theorem v210100220 : readBoardAux P2 6 (⟨N2, N1, N0, N1, N0, N0, N2, N2, N0⟩ : Grid) P1 = some (Z0, some M22) :=
  readBoardAux_step P2 5 (⟨N2, N1, N0, N1, N0, N0, N2, N2, N0⟩ : Grid) P1 [M02, M11, M12, M22] rfl rfl
    (collectScores_cons v211100220 (collectScores_cons v210110220 (collectScores_cons v210101220 (collectScores_cons v210100221 collectScores_nil)))) rfl

theorem v210110202 : readBoardAux P2 5 (⟨N2, N1, N0, N1, N1, N0, N2, N0, N2⟩ : Grid) P2 = some (ZP, some M21) :=
  readBoardAux_step P2 4 (⟨N2, N1, N0, N1, N1, N0, N2, N0, N2⟩ : Grid) P2 [M02, M12, M21] rfl rfl
    (collectScores_cons v212110202 (collectScores_cons v210112202 (collectScores_cons t210110222 collectScores_nil))) rfl

theorem v210101202 : readBoardAux P2 5 (⟨N2, N1, N0, N1, N0, N1, N2, N0, N2⟩ : Grid) P2 = some (ZP, some M11) :=
  readBoardAux_step P2 4 (⟨N2, N1, N0, N1, N0, N1, N2, N0, N2⟩ : Grid) P2 [M02, M11, M21] rfl rfl
    (collectScores_cons v212101202 (collectScores_cons t210121202 (collectScores_cons t210101222 collectScores_nil))) rfl

theorem v210100212 : readBoardAux P2 5 (⟨N2, N1, N0, N1, N0, N0, N2, N1, N2⟩ : Grid) P2 = some (ZP, some M11) :=
  readBoardAux_step P2 4 (⟨N2, N1, N0, N1, N0, N0, N2, N1, N2⟩ : Grid) P2 [M02, M11, M12] rfl rfl
    (collectScores_cons v212100212 (collectScores_cons t210120212 (collectScores_cons v210102212 collectScores_nil))) rfl

theorem v210100202 : readBoardAux P2 6 (⟨N2, N1, N0, N1, N0, N0, N2, N0, N2⟩ : Grid) P1 = some (ZP, some M02) :=
  readBoardAux_step P2 5 (⟨N2, N1, N0, N1, N0, N0, N2, N0, N2⟩ : Grid) P1 [M02, M11, M12, M21] rfl rfl
    (collectScores_cons v211100202 (collectScores_cons v210110202 (collectScores_cons v210101202 (collectScores_cons v210100212 collectScores_nil)))) rfl

theorem v210100200 : readBoardAux P2 7 (⟨N2, N1, N0, N1, N0, N0, N2, N0, N0⟩ : Grid) P2 = some (ZP, some M11) :=
  readBoardAux_step P2 6 (⟨N2, N1, N0, N1, N0, N0, N2, N0, N0⟩ : Grid) P2 [M02, M11, M12, M21, M22] rfl rfl
    (collectScores_cons v212100200 (collectScores_cons v210120200 (collectScores_cons v210102200 (collectScores_cons v210100220 (collectScores_cons v210100202 collectScores_nil))))) rfl

theorem t210011222 : readBoardAux P2 4 (⟨N2, N1, N0, N0, N1, N1, N2, N2, N2⟩ : Grid) P1 = some (ZP, none) :=
  rfl

theorem v210011220 : readBoardAux P2 5 (⟨N2, N1, N0, N0, N1, N1, N2, N2, N0⟩ : Grid) P2 = some (ZP, some M10) :=
  readBoardAux_step P2 4 (⟨N2, N1, N0, N0, N1, N1, N2, N2, N0⟩ : Grid) P2 [M02, M10, M22] rfl rfl
    (collectScores_cons v212011220 (collectScores_cons t210211220 (collectScores_cons t210011222 collectScores_nil))) rfl

theorem v210010221 : readBoardAux P2 5 (⟨N2, N1, N0, N0, N1, N0, N2, N2, N1⟩ : Grid) P2 = some (ZP, some M10) :=
  readBoardAux_step P2 4 (⟨N2, N1, N0, N0, N1, N0, N2, N2, N1⟩ : Grid) P2 [M02, M10, M12] rfl rfl
    (collectScores_cons v212010221 (collectScores_cons t210210221 (collectScores_cons v210012221 collectScores_nil))) rfl

theorem v210010220 : readBoardAux P2 6 (⟨N2, N1, N0, N0, N1, N0, N2, N2, N0⟩ : Grid) P1 = some (ZP, some M02) :=
  readBoardAux_step P2 5 (⟨N2, N1, N0, N0, N1, N0, N2, N2, N0⟩ : Grid) P1 [M02, M10, M12, M22] rfl rfl
    (collectScores_cons v211010220 (collectScores_cons v210110220 (collectScores_cons v210011220 (collectScores_cons v210010221 collectScores_nil)))) rfl

theorem v210011202 : readBoardAux P2 5 (⟨N2, N1, N0, N0, N1, N1, N2, N0, N2⟩ : Grid) P2 = some (ZP, some M10) :=
  readBoardAux_step P2 4 (⟨N2, N1, N0, N0, N1, N1, N2, N0, N2⟩ : Grid) P2 [M02, M10, M21] rfl rfl
    (collectScores_cons v212011202 (collectScores_cons t210211202 (collectScores_cons t210011222 collectScores_nil))) rfl

theorem t210010212 : readBoardAux P2 5 (⟨N2, N1, N0, N0, N1, N0, N2, N1, N2⟩ : Grid) P2 = some (ZM, none) :=
  rfl

theorem v210010202 : readBoardAux P2 6 (⟨N2, N1, N0, N0, N1, N0, N2, N0, N2⟩ : Grid) P1 = some (ZM, some M21) :=
  readBoardAux_step P2 5 (⟨N2, N1, N0, N0, N1, N0, N2, N0, N2⟩ : Grid) P1 [M02, M10, M12, M21] rfl rfl
    (collectScores_cons v211010202 (collectScores_cons v210110202 (collectScores_cons v210011202 (collectScores_cons t210010212 collectScores_nil)))) rfl

theorem v210010200 : readBoardAux P2 7 (⟨N2, N1, N0, N0, N1, N0, N2, N0, N0⟩ : Grid) P2 = some (ZP, some M10) :=
  readBoardAux_step P2 6 (⟨N2, N1, N0, N0, N1, N0, N2, N0, N0⟩ : Grid) P2 [M02, M10, M12, M21, M22] rfl rfl
    (collectScores_cons v212010200 (collectScores_cons t210210200 (collectScores_cons v210012200 (collectScores_cons v210010220 (collectScores_cons v210010202 collectScores_nil))))) rfl

theorem v210001221 : readBoardAux P2 5 (⟨N2, N1, N0, N0, N0, N1, N2, N2, N1⟩ : Grid) P2 = some (ZP, some M02) :=
  readBoardAux_step P2 4 (⟨N2, N1, N0, N0, N0, N1, N2, N2, N1⟩ : Grid) P2 [M02, M10, M11] rfl rfl
    (collectScores_cons v212001221 (collectScores_cons t210201221 (collectScores_cons v210021221 collectScores_nil))) rfl

theorem v210001220 : readBoardAux P2 6 (⟨N2, N1, N0, N0, N0, N1, N2, N2, N0⟩ : Grid) P1 = some (ZP, some M02) :=
  readBoardAux_step P2 5 (⟨N2, N1, N0, N0, N0, N1, N2, N2, N0⟩ : Grid) P1 [M02, M10, M11, M22] rfl rfl
    (collectScores_cons v211001220 (collectScores_cons v210101220 (collectScores_cons v210011220 (collectScores_cons v210001221 collectScores_nil)))) rfl

theorem v210001212 : readBoardAux P2 5 (⟨N2, N1, N0, N0, N0, N1, N2, N1, N2⟩ : Grid) P2 = some (ZP, some M10) :=
  readBoardAux_step P2 4 (⟨N2, N1, N0, N0, N0, N1, N2, N1, N2⟩ : Grid) P2 [M02, M10, M11] rfl rfl
    (collectScores_cons v212001212 (collectScores_cons t210201212 (collectScores_cons t210021212 collectScores_nil))) rfl

theorem v210001202 : readBoardAux P2 6 (⟨N2, N1, N0, N0, N0, N1, N2, N0, N2⟩ : Grid) P1 = some (ZP, some M02) :=
  readBoardAux_step P2 5 (⟨N2, N1, N0, N0, N0, N1, N2, N0, N2⟩ : Grid) P1 [M02, M10, M11, M21] rfl rfl
    (collectScores_cons v211001202 (collectScores_cons v210101202 (collectScores_cons v210011202 (collectScores_cons v210001212 collectScores_nil)))) rfl

theorem v210001200 : readBoardAux P2 7 (⟨N2, N1, N0, N0, N0, N1, N2, N0, N0⟩ : Grid) P2 = some (ZP, some M02) :=
  readBoardAux_step P2 6 (⟨N2, N1, N0, N0, N0, N1, N2, N0, N0⟩ : Grid) P2 [M02, M10, M11, M21, M22] rfl rfl
    (collectScores_cons v212001200 (collectScores_cons t210201200 (collectScores_cons v210021200 (collectScores_cons v210001220 (collectScores_cons v210001202 collectScores_nil))))) rfl

theorem v210000212 : readBoardAux P2 6 (⟨N2, N1, N0, N0, N0, N0, N2, N1, N2⟩ : Grid) P1 = some (ZM, some M11) :=
  readBoardAux_step P2 5 (⟨N2, N1, N0, N0, N0, N0, N2, N1, N2⟩ : Grid) P1 [M02, M10, M11, M12] rfl rfl
    (collectScores_cons v211000212 (collectScores_cons v210100212 (collectScores_cons t210010212 (collectScores_cons v210001212 collectScores_nil)))) rfl

theorem v210000210 : readBoardAux P2 7 (⟨N2, N1, N0, N0, N0, N0, N2, N1, N0⟩ : Grid) P2 = some (ZP, some M10) :=
  readBoardAux_step P2 6 (⟨N2, N1, N0, N0, N0, N0, N2, N1, N0⟩ : Grid) P2 [M02, M10, M11, M12, M22] rfl rfl
    (collectScores_cons v212000210 (collectScores_cons t210200210 (collectScores_cons v210020210 (collectScores_cons v210002210 (collectScores_cons v210000212 collectScores_nil))))) rfl

theorem v210000221 : readBoardAux P2 6 (⟨N2, N1, N0, N0, N0, N0, N2, N2, N1⟩ : Grid) P1 = some (Z0, some M10) :=
  readBoardAux_step P2 5 (⟨N2, N1, N0, N0, N0, N0, N2, N2, N1⟩ : Grid) P1 [M02, M10, M11, M12] rfl rfl
    (collectScores_cons v211000221 (collectScores_cons v210100221 (collectScores_cons v210010221 (collectScores_cons v210001221 collectScores_nil)))) rfl

theorem v210000201 : readBoardAux P2 7 (⟨N2, N1, N0, N0, N0, N0, N2, N0, N1⟩ : Grid) P2 = some (ZP, some M02) :=
  readBoardAux_step P2 6 (⟨N2, N1, N0, N0, N0, N0, N2, N0, N1⟩ : Grid) P2 [M02, M10, M11, M12, M21] rfl rfl
    (collectScores_cons v212000201 (collectScores_cons t210200201 (collectScores_cons v210020201 (collectScores_cons v210002201 (collectScores_cons v210000221 collectScores_nil))))) rfl

theorem v210000200 : readBoardAux P2 8 (⟨N2, N1, N0, N0, N0, N0, N2, N0, N0⟩ : Grid) P1 = some (ZP, some M02) :=
  readBoardAux_step P2 7 (⟨N2, N1, N0, N0, N0, N0, N2, N0, N0⟩ : Grid) P1 [M02, M10, M11, M12, M21, M22] rfl rfl
    (collectScores_cons v211000200 (collectScores_cons v210100200 (collectScores_cons v210010200 (collectScores_cons v210001200 (collectScores_cons v210000210 (collectScores_cons v210000201 collectScores_nil)))))) rfl

theorem v211100022 : readBoardAux P2 5 (⟨N2, N1, N1, N1, N0, N0, N0, N2, N2⟩ : Grid) P2 = some (ZP, some M11) :=
  readBoardAux_step P2 4 (⟨N2, N1, N1, N1, N0, N0, N0, N2, N2⟩ : Grid) P2 [M11, M12, M20] rfl rfl
    (collectScores_cons t211120022 (collectScores_cons v211102022 (collectScores_cons t211100222 collectScores_nil))) rfl

theorem v211010022 : readBoardAux P2 5 (⟨N2, N1, N1, N0, N1, N0, N0, N2, N2⟩ : Grid) P2 = some (ZP, some M20) :=
  readBoardAux_step P2 4 (⟨N2, N1, N1, N0, N1, N0, N0, N2, N2⟩ : Grid) P2 [M10, M12, M20] rfl rfl
    (collectScores_cons v211210022 (collectScores_cons v211012022 (collectScores_cons t211010222 collectScores_nil))) rfl

theorem v211001022 : readBoardAux P2 5 (⟨N2, N1, N1, N0, N0, N1, N0, N2, N2⟩ : Grid) P2 = some (ZP, some M10) :=
  readBoardAux_step P2 4 (⟨N2, N1, N1, N0, N0, N1, N0, N2, N2⟩ : Grid) P2 [M10, M11, M20] rfl rfl
    (collectScores_cons v211201022 (collectScores_cons t211021022 (collectScores_cons t211001222 collectScores_nil))) rfl

theorem v211000122 : readBoardAux P2 5 (⟨N2, N1, N1, N0, N0, N0, N1, N2, N2⟩ : Grid) P2 = some (ZP, some M11) :=
  readBoardAux_step P2 4 (⟨N2, N1, N1, N0, N0, N0, N1, N2, N2⟩ : Grid) P2 [M10, M11, M12] rfl rfl
    (collectScores_cons v211200122 (collectScores_cons t211020122 (collectScores_cons v211002122 collectScores_nil))) rfl

theorem v211000022 : readBoardAux P2 6 (⟨N2, N1, N1, N0, N0, N0, N0, N2, N2⟩ : Grid) P1 = some (ZP, some M10) :=
  readBoardAux_step P2 5 (⟨N2, N1, N1, N0, N0, N0, N0, N2, N2⟩ : Grid) P1 [M10, M11, M12, M20] rfl rfl
    (collectScores_cons v211100022 (collectScores_cons v211010022 (collectScores_cons v211001022 (collectScores_cons v211000122 collectScores_nil)))) rfl

theorem v211000020 : readBoardAux P2 7 (⟨N2, N1, N1, N0, N0, N0, N0, N2, N0⟩ : Grid) P2 = some (ZP, some M10) :=
  readBoardAux_step P2 6 (⟨N2, N1, N1, N0, N0, N0, N0, N2, N0⟩ : Grid) P2 [M10, M11, M12, M20, M22] rfl rfl
    (collectScores_cons v211200020 (collectScores_cons v211020020 (collectScores_cons v211002020 (collectScores_cons v211000220 (collectScores_cons v211000022 collectScores_nil))))) rfl

theorem v210110022 : readBoardAux P2 5 (⟨N2, N1, N0, N1, N1, N0, N0, N2, N2⟩ : Grid) P2 = some (ZP, some M12) :=
  readBoardAux_step P2 4 (⟨N2, N1, N0, N1, N1, N0, N0, N2, N2⟩ : Grid) P2 [M02, M12, M20] rfl rfl
    (collectScores_cons v212110022 (collectScores_cons v210112022 (collectScores_cons t210110222 collectScores_nil))) rfl

theorem v210101022 : readBoardAux P2 5 (⟨N2, N1, N0, N1, N0, N1, N0, N2, N2⟩ : Grid) P2 = some (ZP, some M11) :=
  readBoardAux_step P2 4 (⟨N2, N1, N0, N1, N0, N1, N0, N2, N2⟩ : Grid) P2 [M02, M11, M20] rfl rfl
    (collectScores_cons v212101022 (collectScores_cons t210121022 (collectScores_cons t210101222 collectScores_nil))) rfl

theorem v210100122 : readBoardAux P2 5 (⟨N2, N1, N0, N1, N0, N0, N1, N2, N2⟩ : Grid) P2 = some (ZP, some M02) :=
  readBoardAux_step P2 4 (⟨N2, N1, N0, N1, N0, N0, N1, N2, N2⟩ : Grid) P2 [M02, M11, M12] rfl rfl
    (collectScores_cons v212100122 (collectScores_cons t210120122 (collectScores_cons v210102122 collectScores_nil))) rfl

theorem v210100022 : readBoardAux P2 6 (⟨N2, N1, N0, N1, N0, N0, N0, N2, N2⟩ : Grid) P1 = some (ZP, some M02) :=
  readBoardAux_step P2 5 (⟨N2, N1, N0, N1, N0, N0, N0, N2, N2⟩ : Grid) P1 [M02, M11, M12, M20] rfl rfl
    (collectScores_cons v211100022 (collectScores_cons v210110022 (collectScores_cons v210101022 (collectScores_cons v210100122 collectScores_nil)))) rfl

theorem v210100020 : readBoardAux P2 7 (⟨N2, N1, N0, N1, N0, N0, N0, N2, N0⟩ : Grid) P2 = some (ZP, some M22) :=
  readBoardAux_step P2 6 (⟨N2, N1, N0, N1, N0, N0, N0, N2, N0⟩ : Grid) P2 [M02, M11, M12, M20, M22] rfl rfl
    (collectScores_cons v212100020 (collectScores_cons v210120020 (collectScores_cons v210102020 (collectScores_cons v210100220 (collectScores_cons v210100022 collectScores_nil))))) rfl

theorem v210011022 : readBoardAux P2 5 (⟨N2, N1, N0, N0, N1, N1, N0, N2, N2⟩ : Grid) P2 = some (ZP, some M20) :=
  readBoardAux_step P2 4 (⟨N2, N1, N0, N0, N1, N1, N0, N2, N2⟩ : Grid) P2 [M02, M10, M20] rfl rfl
    (collectScores_cons v212011022 (collectScores_cons v210211022 (collectScores_cons t210011222 collectScores_nil))) rfl

theorem v210010122 : readBoardAux P2 5 (⟨N2, N1, N0, N0, N1, N0, N1, N2, N2⟩ : Grid) P2 = some (Z0, some M02) :=
  readBoardAux_step P2 4 (⟨N2, N1, N0, N0, N1, N0, N1, N2, N2⟩ : Grid) P2 [M02, M10, M12] rfl rfl
    (collectScores_cons v212010122 (collectScores_cons v210210122 (collectScores_cons v210012122 collectScores_nil))) rfl

theorem v210010022 : readBoardAux P2 6 (⟨N2, N1, N0, N0, N1, N0, N0, N2, N2⟩ : Grid) P1 = some (Z0, some M20) :=
  readBoardAux_step P2 5 (⟨N2, N1, N0, N0, N1, N0, N0, N2, N2⟩ : Grid) P1 [M02, M10, M12, M20] rfl rfl
    (collectScores_cons v211010022 (collectScores_cons v210110022 (collectScores_cons v210011022 (collectScores_cons v210010122 collectScores_nil)))) rfl

theorem v210010020 : readBoardAux P2 7 (⟨N2, N1, N0, N0, N1, N0, N0, N2, N0⟩ : Grid) P2 = some (ZP, some M20) :=
  readBoardAux_step P2 6 (⟨N2, N1, N0, N0, N1, N0, N0, N2, N0⟩ : Grid) P2 [M02, M10, M12, M20, M22] rfl rfl
    (collectScores_cons v212010020 (collectScores_cons v210210020 (collectScores_cons v210012020 (collectScores_cons v210010220 (collectScores_cons v210010022 collectScores_nil))))) rfl

theorem v210001122 : readBoardAux P2 5 (⟨N2, N1, N0, N0, N0, N1, N1, N2, N2⟩ : Grid) P2 = some (ZP, some M11) :=
  readBoardAux_step P2 4 (⟨N2, N1, N0, N0, N0, N1, N1, N2, N2⟩ : Grid) P2 [M02, M10, M11] rfl rfl
    (collectScores_cons v212001122 (collectScores_cons v210201122 (collectScores_cons t210021122 collectScores_nil))) rfl

theorem v210001022 : readBoardAux P2 6 (⟨N2, N1, N0, N0, N0, N1, N0, N2, N2⟩ : Grid) P1 = some (ZP, some M02) :=
  readBoardAux_step P2 5 (⟨N2, N1, N0, N0, N0, N1, N0, N2, N2⟩ : Grid) P1 [M02, M10, M11, M20] rfl rfl
    (collectScores_cons v211001022 (collectScores_cons v210101022 (collectScores_cons v210011022 (collectScores_cons v210001122 collectScores_nil)))) rfl

theorem v210001020 : readBoardAux P2 7 (⟨N2, N1, N0, N0, N0, N1, N0, N2, N0⟩ : Grid) P2 = some (ZP, some M20) :=
  readBoardAux_step P2 6 (⟨N2, N1, N0, N0, N0, N1, N0, N2, N0⟩ : Grid) P2 [M02, M10, M11, M20, M22] rfl rfl
    (collectScores_cons v212001020 (collectScores_cons v210201020 (collectScores_cons v210021020 (collectScores_cons v210001220 (collectScores_cons v210001022 collectScores_nil))))) rfl

theorem v210000122 : readBoardAux P2 6 (⟨N2, N1, N0, N0, N0, N0, N1, N2, N2⟩ : Grid) P1 = some (Z0, some M11) :=
  readBoardAux_step P2 5 (⟨N2, N1, N0, N0, N0, N0, N1, N2, N2⟩ : Grid) P1 [M02, M10, M11, M12] rfl rfl
    (collectScores_cons v211000122 (collectScores_cons v210100122 (collectScores_cons v210010122 (collectScores_cons v210001122 collectScores_nil)))) rfl

theorem v210000120 : readBoardAux P2 7 (⟨N2, N1, N0, N0, N0, N0, N1, N2, N0⟩ : Grid) P2 = some (Z0, some M02) :=
  readBoardAux_step P2 6 (⟨N2, N1, N0, N0, N0, N0, N1, N2, N0⟩ : Grid) P2 [M02, M10, M11, M12, M22] rfl rfl
    (collectScores_cons v212000120 (collectScores_cons v210200120 (collectScores_cons v210020120 (collectScores_cons v210002120 (collectScores_cons v210000122 collectScores_nil))))) rfl

theorem v210000021 : readBoardAux P2 7 (⟨N2, N1, N0, N0, N0, N0, N0, N2, N1⟩ : Grid) P2 = some (Z0, some M02) :=
  readBoardAux_step P2 6 (⟨N2, N1, N0, N0, N0, N0, N0, N2, N1⟩ : Grid) P2 [M02, M10, M11, M12, M20] rfl rfl
    (collectScores_cons v212000021 (collectScores_cons v210200021 (collectScores_cons v210020021 (collectScores_cons v210002021 (collectScores_cons v210000221 collectScores_nil))))) rfl

theorem v210000020 : readBoardAux P2 8 (⟨N2, N1, N0, N0, N0, N0, N0, N2, N0⟩ : Grid) P1 = some (Z0, some M20) :=
  readBoardAux_step P2 7 (⟨N2, N1, N0, N0, N0, N0, N0, N2, N0⟩ : Grid) P1 [M02, M10, M11, M12, M20, M22] rfl rfl
    (collectScores_cons v211000020 (collectScores_cons v210100020 (collectScores_cons v210010020 (collectScores_cons v210001020 (collectScores_cons v210000120 (collectScores_cons v210000021 collectScores_nil)))))) rfl

theorem v211000002 : readBoardAux P2 7 (⟨N2, N1, N1, N0, N0, N0, N0, N0, N2⟩ : Grid) P2 = some (ZP, some M10) :=
  readBoardAux_step P2 6 (⟨N2, N1, N1, N0, N0, N0, N0, N0, N2⟩ : Grid) P2 [M10, M11, M12, M20, M21] rfl rfl
    (collectScores_cons v211200002 (collectScores_cons t211020002 (collectScores_cons v211002002 (collectScores_cons v211000202 (collectScores_cons v211000022 collectScores_nil))))) rfl

theorem v210100002 : readBoardAux P2 7 (⟨N2, N1, N0, N1, N0, N0, N0, N0, N2⟩ : Grid) P2 = some (ZP, some M02) :=
  readBoardAux_step P2 6 (⟨N2, N1, N0, N1, N0, N0, N0, N0, N2⟩ : Grid) P2 [M02, M11, M12, M20, M21] rfl rfl
    (collectScores_cons v212100002 (collectScores_cons t210120002 (collectScores_cons v210102002 (collectScores_cons v210100202 (collectScores_cons v210100022 collectScores_nil))))) rfl

theorem v210010002 : readBoardAux P2 7 (⟨N2, N1, N0, N0, N1, N0, N0, N0, N2⟩ : Grid) P2 = some (Z0, some M21) :=
  readBoardAux_step P2 6 (⟨N2, N1, N0, N0, N1, N0, N0, N0, N2⟩ : Grid) P2 [M02, M10, M12, M20, M21] rfl rfl
    (collectScores_cons v212010002 (collectScores_cons v210210002 (collectScores_cons v210012002 (collectScores_cons v210010202 (collectScores_cons v210010022 collectScores_nil))))) rfl

theorem v210001002 : readBoardAux P2 7 (⟨N2, N1, N0, N0, N0, N1, N0, N0, N2⟩ : Grid) P2 = some (ZP, some M10) :=
  readBoardAux_step P2 6 (⟨N2, N1, N0, N0, N0, N1, N0, N0, N2⟩ : Grid) P2 [M02, M10, M11, M20, M21] rfl rfl
    (collectScores_cons v212001002 (collectScores_cons v210201002 (collectScores_cons t210021002 (collectScores_cons v210001202 (collectScores_cons v210001022 collectScores_nil))))) rfl

theorem v210000102 : readBoardAux P2 7 (⟨N2, N1, N0, N0, N0, N0, N1, N0, N2⟩ : Grid) P2 = some (ZP, some M02) :=
  readBoardAux_step P2 6 (⟨N2, N1, N0, N0, N0, N0, N1, N0, N2⟩ : Grid) P2 [M02, M10, M11, M12, M21] rfl rfl
    (collectScores_cons v212000102 (collectScores_cons v210200102 (collectScores_cons t210020102 (collectScores_cons v210002102 (collectScores_cons v210000122 collectScores_nil))))) rfl

theorem v210000012 : readBoardAux P2 7 (⟨N2, N1, N0, N0, N0, N0, N0, N1, N2⟩ : Grid) P2 = some (ZP, some M11) :=
  readBoardAux_step P2 6 (⟨N2, N1, N0, N0, N0, N0, N0, N1, N2⟩ : Grid) P2 [M02, M10, M11, M12, M20] rfl rfl
    (collectScores_cons v212000012 (collectScores_cons v210200012 (collectScores_cons t210020012 (collectScores_cons v210002012 (collectScores_cons v210000212 collectScores_nil))))) rfl

theorem v210000002 : readBoardAux P2 8 (⟨N2, N1, N0, N0, N0, N0, N0, N0, N2⟩ : Grid) P1 = some (Z0, some M11) :=
  readBoardAux_step P2 7 (⟨N2, N1, N0, N0, N0, N0, N0, N0, N2⟩ : Grid) P1 [M02, M10, M11, M12, M20, M21] rfl rfl
    (collectScores_cons v211000002 (collectScores_cons v210100002 (collectScores_cons v210010002 (collectScores_cons v210001002 (collectScores_cons v210000102 (collectScores_cons v210000012 collectScores_nil)))))) rfl

theorem v210000000 : readBoardAux P2 9 (⟨N2, N1, N0, N0, N0, N0, N0, N0, N0⟩ : Grid) P2 = some (ZP, some M10) :=
  readBoardAux_step P2 8 (⟨N2, N1, N0, N0, N0, N0, N0, N0, N0⟩ : Grid) P2 [M02, M10, M11, M12, M20, M21, M22] rfl rfl
    (collectScores_cons v212000000 (collectScores_cons v210200000 (collectScores_cons v210020000 (collectScores_cons v210002000 (collectScores_cons v210000200 (collectScores_cons v210000020 (collectScores_cons v210000002 collectScores_nil))))))) rfl

theorem t221121212 : readBoardAux P2 2 (⟨N2, N2, N1, N1, N2, N1, N2, N1, N2⟩ : Grid) P1 = some (ZP, none) :=
  rfl

theorem v221121210 : readBoardAux P2 3 (⟨N2, N2, N1, N1, N2, N1, N2, N1, N0⟩ : Grid) P2 = some (ZP, some M22) :=
  readBoardAux_step P2 2 (⟨N2, N2, N1, N1, N2, N1, N2, N1, N0⟩ : Grid) P2 [M22] rfl rfl
    (collectScores_cons t221121212 collectScores_nil) rfl

theorem t221121201 : readBoardAux P2 3 (⟨N2, N2, N1, N1, N2, N1, N2, N0, N1⟩ : Grid) P2 = some (ZM, none) :=
  rfl

theorem v221121200 : readBoardAux P2 4 (⟨N2, N2, N1, N1, N2, N1, N2, N0, N0⟩ : Grid) P1 = some (ZM, some M22) :=
  readBoardAux_step P2 3 (⟨N2, N2, N1, N1, N2, N1, N2, N0, N0⟩ : Grid) P1 [M21, M22] rfl rfl
    (collectScores_cons v221121210 (collectScores_cons t221121201 collectScores_nil)) rfl

theorem t221121020 : readBoardAux P2 4 (⟨N2, N2, N1, N1, N2, N1, N0, N2, N0⟩ : Grid) P1 = some (ZP, none) :=
  rfl

theorem t221121002 : readBoardAux P2 4 (⟨N2, N2, N1, N1, N2, N1, N0, N0, N2⟩ : Grid) P1 = some (ZP, none) :=
  rfl

theorem v221121000 : readBoardAux P2 5 (⟨N2, N2, N1, N1, N2, N1, N0, N0, N0⟩ : Grid) P2 = some (ZP, some M21) :=
  readBoardAux_step P2 4 (⟨N2, N2, N1, N1, N2, N1, N0, N0, N0⟩ : Grid) P2 [M20, M21, M22] rfl rfl
    (collectScores_cons v221121200 (collectScores_cons t221121020 (collectScores_cons t221121002 collectScores_nil))) rfl

theorem t221122112 : readBoardAux P2 2 (⟨N2, N2, N1, N1, N2, N2, N1, N1, N2⟩ : Grid) P1 = some (ZP, none) :=
  rfl

theorem v221122110 : readBoardAux P2 3 (⟨N2, N2, N1, N1, N2, N2, N1, N1, N0⟩ : Grid) P2 = some (ZP, some M22) :=
  readBoardAux_step P2 2 (⟨N2, N2, N1, N1, N2, N2, N1, N1, N0⟩ : Grid) P2 [M22] rfl rfl
    (collectScores_cons t221122112 collectScores_nil) rfl

theorem t221122121 : readBoardAux P2 2 (⟨N2, N2, N1, N1, N2, N2, N1, N2, N1⟩ : Grid) P1 = some (ZP, none) :=
  rfl

theorem v221122101 : readBoardAux P2 3 (⟨N2, N2, N1, N1, N2, N2, N1, N0, N1⟩ : Grid) P2 = some (ZP, some M21) :=
  readBoardAux_step P2 2 (⟨N2, N2, N1, N1, N2, N2, N1, N0, N1⟩ : Grid) P2 [M21] rfl rfl
    (collectScores_cons t221122121 collectScores_nil) rfl

theorem v221122100 : readBoardAux P2 4 (⟨N2, N2, N1, N1, N2, N2, N1, N0, N0⟩ : Grid) P1 = some (ZP, some M21) :=
  readBoardAux_step P2 3 (⟨N2, N2, N1, N1, N2, N2, N1, N0, N0⟩ : Grid) P1 [M21, M22] rfl rfl
    (collectScores_cons v221122110 (collectScores_cons v221122101 collectScores_nil)) rfl

theorem t221120120 : readBoardAux P2 4 (⟨N2, N2, N1, N1, N2, N0, N1, N2, N0⟩ : Grid) P1 = some (ZP, none) :=
  rfl

theorem t221120102 : readBoardAux P2 4 (⟨N2, N2, N1, N1, N2, N0, N1, N0, N2⟩ : Grid) P1 = some (ZP, none) :=
  rfl

theorem v221120100 : readBoardAux P2 5 (⟨N2, N2, N1, N1, N2, N0, N1, N0, N0⟩ : Grid) P2 = some (ZP, some M12) :=
  readBoardAux_step P2 4 (⟨N2, N2, N1, N1, N2, N0, N1, N0, N0⟩ : Grid) P2 [M12, M21, M22] rfl rfl
    (collectScores_cons v221122100 (collectScores_cons t221120120 (collectScores_cons t221120102 collectScores_nil))) rfl

theorem t221122211 : readBoardAux P2 2 (⟨N2, N2, N1, N1, N2, N2, N2, N1, N1⟩ : Grid) P1 = some (Z0, none) :=
  rfl

theorem v221122011 : readBoardAux P2 3 (⟨N2, N2, N1, N1, N2, N2, N0, N1, N1⟩ : Grid) P2 = some (Z0, some M20) :=
  readBoardAux_step P2 2 (⟨N2, N2, N1, N1, N2, N2, N0, N1, N1⟩ : Grid) P2 [M20] rfl rfl
    (collectScores_cons t221122211 collectScores_nil) rfl

theorem v221122010 : readBoardAux P2 4 (⟨N2, N2, N1, N1, N2, N2, N0, N1, N0⟩ : Grid) P1 = some (Z0, some M22) :=
  readBoardAux_step P2 3 (⟨N2, N2, N1, N1, N2, N2, N0, N1, N0⟩ : Grid) P1 [M20, M22] rfl rfl
    (collectScores_cons v221122110 (collectScores_cons v221122011 collectScores_nil)) rfl

theorem v221120211 : readBoardAux P2 3 (⟨N2, N2, N1, N1, N2, N0, N2, N1, N1⟩ : Grid) P2 = some (Z0, some M12) :=
  readBoardAux_step P2 2 (⟨N2, N2, N1, N1, N2, N0, N2, N1, N1⟩ : Grid) P2 [M12] rfl rfl
    (collectScores_cons t221122211 collectScores_nil) rfl

theorem v221120210 : readBoardAux P2 4 (⟨N2, N2, N1, N1, N2, N0, N2, N1, N0⟩ : Grid) P1 = some (Z0, some M22) :=
  readBoardAux_step P2 3 (⟨N2, N2, N1, N1, N2, N0, N2, N1, N0⟩ : Grid) P1 [M12, M22] rfl rfl
    (collectScores_cons v221121210 (collectScores_cons v221120211 collectScores_nil)) rfl

theorem t221120012 : readBoardAux P2 4 (⟨N2, N2, N1, N1, N2, N0, N0, N1, N2⟩ : Grid) P1 = some (ZP, none) :=
  rfl

theorem v221120010 : readBoardAux P2 5 (⟨N2, N2, N1, N1, N2, N0, N0, N1, N0⟩ : Grid) P2 = some (ZP, some M22) :=
  readBoardAux_step P2 4 (⟨N2, N2, N1, N1, N2, N0, N0, N1, N0⟩ : Grid) P2 [M12, M20, M22] rfl rfl
    (collectScores_cons v221122010 (collectScores_cons v221120210 (collectScores_cons t221120012 collectScores_nil))) rfl

theorem v221122001 : readBoardAux P2 4 (⟨N2, N2, N1, N1, N2, N2, N0, N0, N1⟩ : Grid) P1 = some (Z0, some M21) :=
  readBoardAux_step P2 3 (⟨N2, N2, N1, N1, N2, N2, N0, N0, N1⟩ : Grid) P1 [M20, M21] rfl rfl
    (collectScores_cons v221122101 (collectScores_cons v221122011 collectScores_nil)) rfl

theorem v221120201 : readBoardAux P2 4 (⟨N2, N2, N1, N1, N2, N0, N2, N0, N1⟩ : Grid) P1 = some (ZM, some M12) :=
  readBoardAux_step P2 3 (⟨N2, N2, N1, N1, N2, N0, N2, N0, N1⟩ : Grid) P1 [M12, M21] rfl rfl
    (collectScores_cons t221121201 (collectScores_cons v221120211 collectScores_nil)) rfl

theorem t221120021 : readBoardAux P2 4 (⟨N2, N2, N1, N1, N2, N0, N0, N2, N1⟩ : Grid) P1 = some (ZP, none) :=
  rfl

theorem v221120001 : readBoardAux P2 5 (⟨N2, N2, N1, N1, N2, N0, N0, N0, N1⟩ : Grid) P2 = some (ZP, some M21) :=
  readBoardAux_step P2 4 (⟨N2, N2, N1, N1, N2, N0, N0, N0, N1⟩ : Grid) P2 [M12, M20, M21] rfl rfl
    (collectScores_cons v221122001 (collectScores_cons v221120201 (collectScores_cons t221120021 collectScores_nil))) rfl

theorem v221120000 : readBoardAux P2 6 (⟨N2, N2, N1, N1, N2, N0, N0, N0, N0⟩ : Grid) P1 = some (ZP, some M12) :=
  readBoardAux_step P2 5 (⟨N2, N2, N1, N1, N2, N0, N0, N0, N0⟩ : Grid) P1 [M12, M20, M21, M22] rfl rfl
    (collectScores_cons v221121000 (collectScores_cons v221120100 (collectScores_cons v221120010 (collectScores_cons v221120001 collectScores_nil)))) rfl

theorem t221112212 : readBoardAux P2 2 (⟨N2, N2, N1, N1, N1, N2, N2, N1, N2⟩ : Grid) P1 = some (Z0, none) :=
  rfl

theorem v221112210 : readBoardAux P2 3 (⟨N2, N2, N1, N1, N1, N2, N2, N1, N0⟩ : Grid) P2 = some (Z0, some M22) :=
  readBoardAux_step P2 2 (⟨N2, N2, N1, N1, N1, N2, N2, N1, N0⟩ : Grid) P2 [M22] rfl rfl
    (collectScores_cons t221112212 collectScores_nil) rfl

theorem t221112221 : readBoardAux P2 2 (⟨N2, N2, N1, N1, N1, N2, N2, N2, N1⟩ : Grid) P1 = some (Z0, none) :=
  rfl

theorem v221112201 : readBoardAux P2 3 (⟨N2, N2, N1, N1, N1, N2, N2, N0, N1⟩ : Grid) P2 = some (Z0, some M21) :=
  readBoardAux_step P2 2 (⟨N2, N2, N1, N1, N1, N2, N2, N0, N1⟩ : Grid) P2 [M21] rfl rfl
    (collectScores_cons t221112221 collectScores_nil) rfl

theorem v221112200 : readBoardAux P2 4 (⟨N2, N2, N1, N1, N1, N2, N2, N0, N0⟩ : Grid) P1 = some (Z0, some M21) :=
  readBoardAux_step P2 3 (⟨N2, N2, N1, N1, N1, N2, N2, N0, N0⟩ : Grid) P1 [M21, M22] rfl rfl
    (collectScores_cons v221112210 (collectScores_cons v221112201 collectScores_nil)) rfl

theorem t221112120 : readBoardAux P2 3 (⟨N2, N2, N1, N1, N1, N2, N1, N2, N0⟩ : Grid) P2 = some (ZM, none) :=
  rfl

theorem v221112021 : readBoardAux P2 3 (⟨N2, N2, N1, N1, N1, N2, N0, N2, N1⟩ : Grid) P2 = some (Z0, some M20) :=
  readBoardAux_step P2 2 (⟨N2, N2, N1, N1, N1, N2, N0, N2, N1⟩ : Grid) P2 [M20] rfl rfl
    (collectScores_cons t221112221 collectScores_nil) rfl

theorem v221112020 : readBoardAux P2 4 (⟨N2, N2, N1, N1, N1, N2, N0, N2, N0⟩ : Grid) P1 = some (ZM, some M20) :=
  readBoardAux_step P2 3 (⟨N2, N2, N1, N1, N1, N2, N0, N2, N0⟩ : Grid) P1 [M20, M22] rfl rfl
    (collectScores_cons t221112120 (collectScores_cons v221112021 collectScores_nil)) rfl

theorem t221112102 : readBoardAux P2 3 (⟨N2, N2, N1, N1, N1, N2, N1, N0, N2⟩ : Grid) P2 = some (ZM, none) :=
  rfl

theorem v221112012 : readBoardAux P2 3 (⟨N2, N2, N1, N1, N1, N2, N0, N1, N2⟩ : Grid) P2 = some (Z0, some M20) :=
  readBoardAux_step P2 2 (⟨N2, N2, N1, N1, N1, N2, N0, N1, N2⟩ : Grid) P2 [M20] rfl rfl
    (collectScores_cons t221112212 collectScores_nil) rfl

theorem v221112002 : readBoardAux P2 4 (⟨N2, N2, N1, N1, N1, N2, N0, N0, N2⟩ : Grid) P1 = some (ZM, some M20) :=
  readBoardAux_step P2 3 (⟨N2, N2, N1, N1, N1, N2, N0, N0, N2⟩ : Grid) P1 [M20, M21] rfl rfl
    (collectScores_cons t221112102 (collectScores_cons v221112012 collectScores_nil)) rfl

theorem v221112000 : readBoardAux P2 5 (⟨N2, N2, N1, N1, N1, N2, N0, N0, N0⟩ : Grid) P2 = some (Z0, some M20) :=
  readBoardAux_step P2 4 (⟨N2, N2, N1, N1, N1, N2, N0, N0, N0⟩ : Grid) P2 [M20, M21, M22] rfl rfl
    (collectScores_cons v221112200 (collectScores_cons v221112020 (collectScores_cons v221112002 collectScores_nil))) rfl

theorem v221102121 : readBoardAux P2 3 (⟨N2, N2, N1, N1, N0, N2, N1, N2, N1⟩ : Grid) P2 = some (ZP, some M11) :=
  readBoardAux_step P2 2 (⟨N2, N2, N1, N1, N0, N2, N1, N2, N1⟩ : Grid) P2 [M11] rfl rfl
    (collectScores_cons t221122121 collectScores_nil) rfl

theorem v221102120 : readBoardAux P2 4 (⟨N2, N2, N1, N1, N0, N2, N1, N2, N0⟩ : Grid) P1 = some (ZM, some M11) :=
  readBoardAux_step P2 3 (⟨N2, N2, N1, N1, N0, N2, N1, N2, N0⟩ : Grid) P1 [M11, M22] rfl rfl
    (collectScores_cons t221112120 (collectScores_cons v221102121 collectScores_nil)) rfl

theorem v221102112 : readBoardAux P2 3 (⟨N2, N2, N1, N1, N0, N2, N1, N1, N2⟩ : Grid) P2 = some (ZP, some M11) :=
  readBoardAux_step P2 2 (⟨N2, N2, N1, N1, N0, N2, N1, N1, N2⟩ : Grid) P2 [M11] rfl rfl
    (collectScores_cons t221122112 collectScores_nil) rfl

theorem v221102102 : readBoardAux P2 4 (⟨N2, N2, N1, N1, N0, N2, N1, N0, N2⟩ : Grid) P1 = some (ZM, some M11) :=
  readBoardAux_step P2 3 (⟨N2, N2, N1, N1, N0, N2, N1, N0, N2⟩ : Grid) P1 [M11, M21] rfl rfl
    (collectScores_cons t221112102 (collectScores_cons v221102112 collectScores_nil)) rfl

theorem v221102100 : readBoardAux P2 5 (⟨N2, N2, N1, N1, N0, N2, N1, N0, N0⟩ : Grid) P2 = some (ZP, some M11) :=
  readBoardAux_step P2 4 (⟨N2, N2, N1, N1, N0, N2, N1, N0, N0⟩ : Grid) P2 [M11, M21, M22] rfl rfl
    (collectScores_cons v221122100 (collectScores_cons v221102120 (collectScores_cons v221102102 collectScores_nil))) rfl

theorem v221102211 : readBoardAux P2 3 (⟨N2, N2, N1, N1, N0, N2, N2, N1, N1⟩ : Grid) P2 = some (Z0, some M11) :=
  readBoardAux_step P2 2 (⟨N2, N2, N1, N1, N0, N2, N2, N1, N1⟩ : Grid) P2 [M11] rfl rfl
    (collectScores_cons t221122211 collectScores_nil) rfl

theorem v221102210 : readBoardAux P2 4 (⟨N2, N2, N1, N1, N0, N2, N2, N1, N0⟩ : Grid) P1 = some (Z0, some M11) :=
  readBoardAux_step P2 3 (⟨N2, N2, N1, N1, N0, N2, N2, N1, N0⟩ : Grid) P1 [M11, M22] rfl rfl
    (collectScores_cons v221112210 (collectScores_cons v221102211 collectScores_nil)) rfl

theorem v221102012 : readBoardAux P2 4 (⟨N2, N2, N1, N1, N0, N2, N0, N1, N2⟩ : Grid) P1 = some (Z0, some M11) :=
  readBoardAux_step P2 3 (⟨N2, N2, N1, N1, N0, N2, N0, N1, N2⟩ : Grid) P1 [M11, M20] rfl rfl
    (collectScores_cons v221112012 (collectScores_cons v221102112 collectScores_nil)) rfl

theorem v221102010 : readBoardAux P2 5 (⟨N2, N2, N1, N1, N0, N2, N0, N1, N0⟩ : Grid) P2 = some (Z0, some M11) :=
  readBoardAux_step P2 4 (⟨N2, N2, N1, N1, N0, N2, N0, N1, N0⟩ : Grid) P2 [M11, M20, M22] rfl rfl
    (collectScores_cons v221122010 (collectScores_cons v221102210 (collectScores_cons v221102012 collectScores_nil))) rfl

theorem v221102201 : readBoardAux P2 4 (⟨N2, N2, N1, N1, N0, N2, N2, N0, N1⟩ : Grid) P1 = some (Z0, some M11) :=
  readBoardAux_step P2 3 (⟨N2, N2, N1, N1, N0, N2, N2, N0, N1⟩ : Grid) P1 [M11, M21] rfl rfl
    (collectScores_cons v221112201 (collectScores_cons v221102211 collectScores_nil)) rfl

theorem v221102021 : readBoardAux P2 4 (⟨N2, N2, N1, N1, N0, N2, N0, N2, N1⟩ : Grid) P1 = some (Z0, some M11) :=
  readBoardAux_step P2 3 (⟨N2, N2, N1, N1, N0, N2, N0, N2, N1⟩ : Grid) P1 [M11, M20] rfl rfl
    (collectScores_cons v221112021 (collectScores_cons v221102121 collectScores_nil)) rfl

theorem v221102001 : readBoardAux P2 5 (⟨N2, N2, N1, N1, N0, N2, N0, N0, N1⟩ : Grid) P2 = some (Z0, some M11) :=
  readBoardAux_step P2 4 (⟨N2, N2, N1, N1, N0, N2, N0, N0, N1⟩ : Grid) P2 [M11, M20, M21] rfl rfl
    (collectScores_cons v221122001 (collectScores_cons v221102201 (collectScores_cons v221102021 collectScores_nil))) rfl

theorem v221102000 : readBoardAux P2 6 (⟨N2, N2, N1, N1, N0, N2, N0, N0, N0⟩ : Grid) P1 = some (Z0, some M11) :=
  readBoardAux_step P2 5 (⟨N2, N2, N1, N1, N0, N2, N0, N0, N0⟩ : Grid) P1 [M11, M20, M21, M22] rfl rfl
    (collectScores_cons v221112000 (collectScores_cons v221102100 (collectScores_cons v221102010 (collectScores_cons v221102001 collectScores_nil)))) rfl

theorem t221111220 : readBoardAux P2 3 (⟨N2, N2, N1, N1, N1, N1, N2, N2, N0⟩ : Grid) P2 = some (ZM, none) :=
  rfl

theorem v221110221 : readBoardAux P2 3 (⟨N2, N2, N1, N1, N1, N0, N2, N2, N1⟩ : Grid) P2 = some (Z0, some M12) :=
  readBoardAux_step P2 2 (⟨N2, N2, N1, N1, N1, N0, N2, N2, N1⟩ : Grid) P2 [M12] rfl rfl
    (collectScores_cons t221112221 collectScores_nil) rfl

theorem v221110220 : readBoardAux P2 4 (⟨N2, N2, N1, N1, N1, N0, N2, N2, N0⟩ : Grid) P1 = some (ZM, some M12) :=
  readBoardAux_step P2 3 (⟨N2, N2, N1, N1, N1, N0, N2, N2, N0⟩ : Grid) P1 [M12, M22] rfl rfl
    (collectScores_cons t221111220 (collectScores_cons v221110221 collectScores_nil)) rfl

theorem t221111202 : readBoardAux P2 3 (⟨N2, N2, N1, N1, N1, N1, N2, N0, N2⟩ : Grid) P2 = some (ZM, none) :=
  rfl

theorem v221110212 : readBoardAux P2 3 (⟨N2, N2, N1, N1, N1, N0, N2, N1, N2⟩ : Grid) P2 = some (Z0, some M12) :=
  readBoardAux_step P2 2 (⟨N2, N2, N1, N1, N1, N0, N2, N1, N2⟩ : Grid) P2 [M12] rfl rfl
    (collectScores_cons t221112212 collectScores_nil) rfl

theorem v221110202 : readBoardAux P2 4 (⟨N2, N2, N1, N1, N1, N0, N2, N0, N2⟩ : Grid) P1 = some (ZM, some M12) :=
  readBoardAux_step P2 3 (⟨N2, N2, N1, N1, N1, N0, N2, N0, N2⟩ : Grid) P1 [M12, M21] rfl rfl
    (collectScores_cons t221111202 (collectScores_cons v221110212 collectScores_nil)) rfl

theorem v221110200 : readBoardAux P2 5 (⟨N2, N2, N1, N1, N1, N0, N2, N0, N0⟩ : Grid) P2 = some (Z0, some M12) :=
  readBoardAux_step P2 4 (⟨N2, N2, N1, N1, N1, N0, N2, N0, N0⟩ : Grid) P2 [M12, M21, M22] rfl rfl
    (collectScores_cons v221112200 (collectScores_cons v221110220 (collectScores_cons v221110202 collectScores_nil))) rfl

theorem t221101221 : readBoardAux P2 3 (⟨N2, N2, N1, N1, N0, N1, N2, N2, N1⟩ : Grid) P2 = some (ZM, none) :=
  rfl

theorem v221101220 : readBoardAux P2 4 (⟨N2, N2, N1, N1, N0, N1, N2, N2, N0⟩ : Grid) P1 = some (ZM, some M11) :=
  readBoardAux_step P2 3 (⟨N2, N2, N1, N1, N0, N1, N2, N2, N0⟩ : Grid) P1 [M11, M22] rfl rfl
    (collectScores_cons t221111220 (collectScores_cons t221101221 collectScores_nil)) rfl

theorem v221101212 : readBoardAux P2 3 (⟨N2, N2, N1, N1, N0, N1, N2, N1, N2⟩ : Grid) P2 = some (ZP, some M11) :=
  readBoardAux_step P2 2 (⟨N2, N2, N1, N1, N0, N1, N2, N1, N2⟩ : Grid) P2 [M11] rfl rfl
    (collectScores_cons t221121212 collectScores_nil) rfl

theorem v221101202 : readBoardAux P2 4 (⟨N2, N2, N1, N1, N0, N1, N2, N0, N2⟩ : Grid) P1 = some (ZM, some M11) :=
  readBoardAux_step P2 3 (⟨N2, N2, N1, N1, N0, N1, N2, N0, N2⟩ : Grid) P1 [M11, M21] rfl rfl
    (collectScores_cons t221111202 (collectScores_cons v221101212 collectScores_nil)) rfl

theorem v221101200 : readBoardAux P2 5 (⟨N2, N2, N1, N1, N0, N1, N2, N0, N0⟩ : Grid) P2 = some (ZM, some M11) :=
  readBoardAux_step P2 4 (⟨N2, N2, N1, N1, N0, N1, N2, N0, N0⟩ : Grid) P2 [M11, M21, M22] rfl rfl
    (collectScores_cons v221121200 (collectScores_cons v221101220 (collectScores_cons v221101202 collectScores_nil))) rfl

theorem v221100212 : readBoardAux P2 4 (⟨N2, N2, N1, N1, N0, N0, N2, N1, N2⟩ : Grid) P1 = some (Z0, some M11) :=
  readBoardAux_step P2 3 (⟨N2, N2, N1, N1, N0, N0, N2, N1, N2⟩ : Grid) P1 [M11, M12] rfl rfl
    (collectScores_cons v221110212 (collectScores_cons v221101212 collectScores_nil)) rfl

theorem v221100210 : readBoardAux P2 5 (⟨N2, N2, N1, N1, N0, N0, N2, N1, N0⟩ : Grid) P2 = some (Z0, some M11) :=
  readBoardAux_step P2 4 (⟨N2, N2, N1, N1, N0, N0, N2, N1, N0⟩ : Grid) P2 [M11, M12, M22] rfl rfl
    (collectScores_cons v221120210 (collectScores_cons v221102210 (collectScores_cons v221100212 collectScores_nil))) rfl

theorem v221100221 : readBoardAux P2 4 (⟨N2, N2, N1, N1, N0, N0, N2, N2, N1⟩ : Grid) P1 = some (ZM, some M12) :=
  readBoardAux_step P2 3 (⟨N2, N2, N1, N1, N0, N0, N2, N2, N1⟩ : Grid) P1 [M11, M12] rfl rfl
    (collectScores_cons v221110221 (collectScores_cons t221101221 collectScores_nil)) rfl

theorem v221100201 : readBoardAux P2 5 (⟨N2, N2, N1, N1, N0, N0, N2, N0, N1⟩ : Grid) P2 = some (Z0, some M12) :=
  readBoardAux_step P2 4 (⟨N2, N2, N1, N1, N0, N0, N2, N0, N1⟩ : Grid) P2 [M11, M12, M21] rfl rfl
    (collectScores_cons v221120201 (collectScores_cons v221102201 (collectScores_cons v221100221 collectScores_nil))) rfl

theorem v221100200 : readBoardAux P2 6 (⟨N2, N2, N1, N1, N0, N0, N2, N0, N0⟩ : Grid) P1 = some (ZM, some M12) :=
  readBoardAux_step P2 5 (⟨N2, N2, N1, N1, N0, N0, N2, N0, N0⟩ : Grid) P1 [M11, M12, M21, M22] rfl rfl
    (collectScores_cons v221110200 (collectScores_cons v221101200 (collectScores_cons v221100210 (collectScores_cons v221100201 collectScores_nil)))) rfl

theorem t221111022 : readBoardAux P2 3 (⟨N2, N2, N1, N1, N1, N1, N0, N2, N2⟩ : Grid) P2 = some (ZM, none) :=
  rfl

theorem t221110122 : readBoardAux P2 3 (⟨N2, N2, N1, N1, N1, N0, N1, N2, N2⟩ : Grid) P2 = some (ZM, none) :=
  rfl

theorem v221110022 : readBoardAux P2 4 (⟨N2, N2, N1, N1, N1, N0, N0, N2, N2⟩ : Grid) P1 = some (ZM, some M12) :=
  readBoardAux_step P2 3 (⟨N2, N2, N1, N1, N1, N0, N0, N2, N2⟩ : Grid) P1 [M12, M20] rfl rfl
    (collectScores_cons t221111022 (collectScores_cons t221110122 collectScores_nil)) rfl

theorem v221110020 : readBoardAux P2 5 (⟨N2, N2, N1, N1, N1, N0, N0, N2, N0⟩ : Grid) P2 = some (ZM, some M12) :=
  readBoardAux_step P2 4 (⟨N2, N2, N1, N1, N1, N0, N0, N2, N0⟩ : Grid) P2 [M12, M20, M22] rfl rfl
    (collectScores_cons v221112020 (collectScores_cons v221110220 (collectScores_cons v221110022 collectScores_nil))) rfl

theorem t221121122 : readBoardAux P2 2 (⟨N2, N2, N1, N1, N2, N1, N1, N2, N2⟩ : Grid) P1 = some (ZP, none) :=
  rfl

theorem v221101122 : readBoardAux P2 3 (⟨N2, N2, N1, N1, N0, N1, N1, N2, N2⟩ : Grid) P2 = some (ZP, some M11) :=
  readBoardAux_step P2 2 (⟨N2, N2, N1, N1, N0, N1, N1, N2, N2⟩ : Grid) P2 [M11] rfl rfl
    (collectScores_cons t221121122 collectScores_nil) rfl

theorem v221101022 : readBoardAux P2 4 (⟨N2, N2, N1, N1, N0, N1, N0, N2, N2⟩ : Grid) P1 = some (ZM, some M11) :=
  readBoardAux_step P2 3 (⟨N2, N2, N1, N1, N0, N1, N0, N2, N2⟩ : Grid) P1 [M11, M20] rfl rfl
    (collectScores_cons t221111022 (collectScores_cons v221101122 collectScores_nil)) rfl

theorem v221101020 : readBoardAux P2 5 (⟨N2, N2, N1, N1, N0, N1, N0, N2, N0⟩ : Grid) P2 = some (ZP, some M11) :=
  readBoardAux_step P2 4 (⟨N2, N2, N1, N1, N0, N1, N0, N2, N0⟩ : Grid) P2 [M11, M20, M22] rfl rfl
    (collectScores_cons t221121020 (collectScores_cons v221101220 (collectScores_cons v221101022 collectScores_nil))) rfl

theorem v221100122 : readBoardAux P2 4 (⟨N2, N2, N1, N1, N0, N0, N1, N2, N2⟩ : Grid) P1 = some (ZM, some M11) :=
  readBoardAux_step P2 3 (⟨N2, N2, N1, N1, N0, N0, N1, N2, N2⟩ : Grid) P1 [M11, M12] rfl rfl
    (collectScores_cons t221110122 (collectScores_cons v221101122 collectScores_nil)) rfl

theorem v221100120 : readBoardAux P2 5 (⟨N2, N2, N1, N1, N0, N0, N1, N2, N0⟩ : Grid) P2 = some (ZP, some M11) :=
  readBoardAux_step P2 4 (⟨N2, N2, N1, N1, N0, N0, N1, N2, N0⟩ : Grid) P2 [M11, M12, M22] rfl rfl
    (collectScores_cons t221120120 (collectScores_cons v221102120 (collectScores_cons v221100122 collectScores_nil))) rfl

theorem v221100021 : readBoardAux P2 5 (⟨N2, N2, N1, N1, N0, N0, N0, N2, N1⟩ : Grid) P2 = some (ZP, some M11) :=
  readBoardAux_step P2 4 (⟨N2, N2, N1, N1, N0, N0, N0, N2, N1⟩ : Grid) P2 [M11, M12, M20] rfl rfl
    (collectScores_cons t221120021 (collectScores_cons v221102021 (collectScores_cons v221100221 collectScores_nil))) rfl

theorem v221100020 : readBoardAux P2 6 (⟨N2, N2, N1, N1, N0, N0, N0, N2, N0⟩ : Grid) P1 = some (ZM, some M11) :=
  readBoardAux_step P2 5 (⟨N2, N2, N1, N1, N0, N0, N0, N2, N0⟩ : Grid) P1 [M11, M12, M20, M22] rfl rfl
    (collectScores_cons v221110020 (collectScores_cons v221101020 (collectScores_cons v221100120 (collectScores_cons v221100021 collectScores_nil)))) rfl

theorem v221110002 : readBoardAux P2 5 (⟨N2, N2, N1, N1, N1, N0, N0, N0, N2⟩ : Grid) P2 = some (ZM, some M12) :=
  readBoardAux_step P2 4 (⟨N2, N2, N1, N1, N1, N0, N0, N0, N2⟩ : Grid) P2 [M12, M20, M21] rfl rfl
    (collectScores_cons v221112002 (collectScores_cons v221110202 (collectScores_cons v221110022 collectScores_nil))) rfl

theorem v221101002 : readBoardAux P2 5 (⟨N2, N2, N1, N1, N0, N1, N0, N0, N2⟩ : Grid) P2 = some (ZP, some M11) :=
  readBoardAux_step P2 4 (⟨N2, N2, N1, N1, N0, N1, N0, N0, N2⟩ : Grid) P2 [M11, M20, M21] rfl rfl
    (collectScores_cons t221121002 (collectScores_cons v221101202 (collectScores_cons v221101022 collectScores_nil))) rfl

theorem v221100102 : readBoardAux P2 5 (⟨N2, N2, N1, N1, N0, N0, N1, N0, N2⟩ : Grid) P2 = some (ZP, some M11) :=
  readBoardAux_step P2 4 (⟨N2, N2, N1, N1, N0, N0, N1, N0, N2⟩ : Grid) P2 [M11, M12, M21] rfl rfl
    (collectScores_cons t221120102 (collectScores_cons v221102102 (collectScores_cons v221100122 collectScores_nil))) rfl

theorem v221100012 : readBoardAux P2 5 (⟨N2, N2, N1, N1, N0, N0, N0, N1, N2⟩ : Grid) P2 = some (ZP, some M11) :=
  readBoardAux_step P2 4 (⟨N2, N2, N1, N1, N0, N0, N0, N1, N2⟩ : Grid) P2 [M11, M12, M20] rfl rfl
    (collectScores_cons t221120012 (collectScores_cons v221102012 (collectScores_cons v221100212 collectScores_nil))) rfl

theorem v221100002 : readBoardAux P2 6 (⟨N2, N2, N1, N1, N0, N0, N0, N0, N2⟩ : Grid) P1 = some (ZM, some M11) :=
  readBoardAux_step P2 5 (⟨N2, N2, N1, N1, N0, N0, N0, N0, N2⟩ : Grid) P1 [M11, M12, M20, M21] rfl rfl
    (collectScores_cons v221110002 (collectScores_cons v221101002 (collectScores_cons v221100102 (collectScores_cons v221100012 collectScores_nil)))) rfl

theorem v221100000 : readBoardAux P2 7 (⟨N2, N2, N1, N1, N0, N0, N0, N0, N0⟩ : Grid) P2 = some (ZP, some M11) :=
  readBoardAux_step P2 6 (⟨N2, N2, N1, N1, N0, N0, N0, N0, N0⟩ : Grid) P2 [M11, M12, M20, M21, M22] rfl rfl
    (collectScores_cons v221120000 (collectScores_cons v221102000 (collectScores_cons v221100200 (collectScores_cons v221100020 (collectScores_cons v221100002 collectScores_nil))))) rfl

theorem t221211200 : readBoardAux P2 4 (⟨N2, N2, N1, N2, N1, N1, N2, N0, N0⟩ : Grid) P1 = some (ZP, none) :=
  rfl

theorem t221211120 : readBoardAux P2 3 (⟨N2, N2, N1, N2, N1, N1, N1, N2, N0⟩ : Grid) P2 = some (ZM, none) :=
  rfl

theorem t221211021 : readBoardAux P2 3 (⟨N2, N2, N1, N2, N1, N1, N0, N2, N1⟩ : Grid) P2 = some (ZM, none) :=
  rfl

theorem v221211020 : readBoardAux P2 4 (⟨N2, N2, N1, N2, N1, N1, N0, N2, N0⟩ : Grid) P1 = some (ZM, some M20) :=
  readBoardAux_step P2 3 (⟨N2, N2, N1, N2, N1, N1, N0, N2, N0⟩ : Grid) P1 [M20, M22] rfl rfl
    (collectScores_cons t221211120 (collectScores_cons t221211021 collectScores_nil)) rfl

theorem t221211102 : readBoardAux P2 3 (⟨N2, N2, N1, N2, N1, N1, N1, N0, N2⟩ : Grid) P2 = some (ZM, none) :=
  rfl

theorem t221211212 : readBoardAux P2 2 (⟨N2, N2, N1, N2, N1, N1, N2, N1, N2⟩ : Grid) P1 = some (ZP, none) :=
  rfl

theorem v221211012 : readBoardAux P2 3 (⟨N2, N2, N1, N2, N1, N1, N0, N1, N2⟩ : Grid) P2 = some (ZP, some M20) :=
  readBoardAux_step P2 2 (⟨N2, N2, N1, N2, N1, N1, N0, N1, N2⟩ : Grid) P2 [M20] rfl rfl
    (collectScores_cons t221211212 collectScores_nil) rfl

theorem v221211002 : readBoardAux P2 4 (⟨N2, N2, N1, N2, N1, N1, N0, N0, N2⟩ : Grid) P1 = some (ZM, some M20) :=
  readBoardAux_step P2 3 (⟨N2, N2, N1, N2, N1, N1, N0, N0, N2⟩ : Grid) P1 [M20, M21] rfl rfl
    (collectScores_cons t221211102 (collectScores_cons v221211012 collectScores_nil)) rfl

theorem v221211000 : readBoardAux P2 5 (⟨N2, N2, N1, N2, N1, N1, N0, N0, N0⟩ : Grid) P2 = some (ZP, some M20) :=
  readBoardAux_step P2 4 (⟨N2, N2, N1, N2, N1, N1, N0, N0, N0⟩ : Grid) P2 [M20, M21, M22] rfl rfl
    (collectScores_cons t221211200 (collectScores_cons v221211020 (collectScores_cons v221211002 collectScores_nil))) rfl

theorem t221210100 : readBoardAux P2 5 (⟨N2, N2, N1, N2, N1, N0, N1, N0, N0⟩ : Grid) P2 = some (ZM, none) :=
  rfl

theorem t221212110 : readBoardAux P2 3 (⟨N2, N2, N1, N2, N1, N2, N1, N1, N0⟩ : Grid) P2 = some (ZM, none) :=
  rfl

theorem t221212211 : readBoardAux P2 2 (⟨N2, N2, N1, N2, N1, N2, N2, N1, N1⟩ : Grid) P1 = some (ZP, none) :=
  rfl

theorem v221212011 : readBoardAux P2 3 (⟨N2, N2, N1, N2, N1, N2, N0, N1, N1⟩ : Grid) P2 = some (ZP, some M20) :=
  readBoardAux_step P2 2 (⟨N2, N2, N1, N2, N1, N2, N0, N1, N1⟩ : Grid) P2 [M20] rfl rfl
    (collectScores_cons t221212211 collectScores_nil) rfl

theorem v221212010 : readBoardAux P2 4 (⟨N2, N2, N1, N2, N1, N2, N0, N1, N0⟩ : Grid) P1 = some (ZM, some M20) :=
  readBoardAux_step P2 3 (⟨N2, N2, N1, N2, N1, N2, N0, N1, N0⟩ : Grid) P1 [M20, M22] rfl rfl
    (collectScores_cons t221212110 (collectScores_cons v221212011 collectScores_nil)) rfl

theorem t221210210 : readBoardAux P2 4 (⟨N2, N2, N1, N2, N1, N0, N2, N1, N0⟩ : Grid) P1 = some (ZP, none) :=
  rfl

theorem t221210112 : readBoardAux P2 3 (⟨N2, N2, N1, N2, N1, N0, N1, N1, N2⟩ : Grid) P2 = some (ZM, none) :=
  rfl

theorem v221210012 : readBoardAux P2 4 (⟨N2, N2, N1, N2, N1, N0, N0, N1, N2⟩ : Grid) P1 = some (ZM, some M20) :=
  readBoardAux_step P2 3 (⟨N2, N2, N1, N2, N1, N0, N0, N1, N2⟩ : Grid) P1 [M12, M20] rfl rfl
    (collectScores_cons v221211012 (collectScores_cons t221210112 collectScores_nil)) rfl

theorem v221210010 : readBoardAux P2 5 (⟨N2, N2, N1, N2, N1, N0, N0, N1, N0⟩ : Grid) P2 = some (ZP, some M20) :=
  readBoardAux_step P2 4 (⟨N2, N2, N1, N2, N1, N0, N0, N1, N0⟩ : Grid) P2 [M12, M20, M22] rfl rfl
    (collectScores_cons v221212010 (collectScores_cons t221210210 (collectScores_cons v221210012 collectScores_nil))) rfl

theorem t221212101 : readBoardAux P2 3 (⟨N2, N2, N1, N2, N1, N2, N1, N0, N1⟩ : Grid) P2 = some (ZM, none) :=
  rfl

theorem v221212001 : readBoardAux P2 4 (⟨N2, N2, N1, N2, N1, N2, N0, N0, N1⟩ : Grid) P1 = some (ZM, some M20) :=
  readBoardAux_step P2 3 (⟨N2, N2, N1, N2, N1, N2, N0, N0, N1⟩ : Grid) P1 [M20, M21] rfl rfl
    (collectScores_cons t221212101 (collectScores_cons v221212011 collectScores_nil)) rfl

theorem t221210201 : readBoardAux P2 4 (⟨N2, N2, N1, N2, N1, N0, N2, N0, N1⟩ : Grid) P1 = some (ZP, none) :=
  rfl

theorem t221210121 : readBoardAux P2 3 (⟨N2, N2, N1, N2, N1, N0, N1, N2, N1⟩ : Grid) P2 = some (ZM, none) :=
  rfl

theorem v221210021 : readBoardAux P2 4 (⟨N2, N2, N1, N2, N1, N0, N0, N2, N1⟩ : Grid) P1 = some (ZM, some M12) :=
  readBoardAux_step P2 3 (⟨N2, N2, N1, N2, N1, N0, N0, N2, N1⟩ : Grid) P1 [M12, M20] rfl rfl
    (collectScores_cons t221211021 (collectScores_cons t221210121 collectScores_nil)) rfl

theorem v221210001 : readBoardAux P2 5 (⟨N2, N2, N1, N2, N1, N0, N0, N0, N1⟩ : Grid) P2 = some (ZP, some M20) :=
  readBoardAux_step P2 4 (⟨N2, N2, N1, N2, N1, N0, N0, N0, N1⟩ : Grid) P2 [M12, M20, M21] rfl rfl
    (collectScores_cons v221212001 (collectScores_cons t221210201 (collectScores_cons v221210021 collectScores_nil))) rfl

theorem v221210000 : readBoardAux P2 6 (⟨N2, N2, N1, N2, N1, N0, N0, N0, N0⟩ : Grid) P1 = some (ZM, some M20) :=
  readBoardAux_step P2 5 (⟨N2, N2, N1, N2, N1, N0, N0, N0, N0⟩ : Grid) P1 [M12, M20, M21, M22] rfl rfl
    (collectScores_cons v221211000 (collectScores_cons t221210100 (collectScores_cons v221210010 (collectScores_cons v221210001 collectScores_nil)))) rfl

theorem t221012100 : readBoardAux P2 5 (⟨N2, N2, N1, N0, N1, N2, N1, N0, N0⟩ : Grid) P2 = some (ZM, none) :=
  rfl

theorem v221012211 : readBoardAux P2 3 (⟨N2, N2, N1, N0, N1, N2, N2, N1, N1⟩ : Grid) P2 = some (ZP, some M10) :=
  readBoardAux_step P2 2 (⟨N2, N2, N1, N0, N1, N2, N2, N1, N1⟩ : Grid) P2 [M10] rfl rfl
    (collectScores_cons t221212211 collectScores_nil) rfl

theorem v221012210 : readBoardAux P2 4 (⟨N2, N2, N1, N0, N1, N2, N2, N1, N0⟩ : Grid) P1 = some (Z0, some M10) :=
  readBoardAux_step P2 3 (⟨N2, N2, N1, N0, N1, N2, N2, N1, N0⟩ : Grid) P1 [M10, M22] rfl rfl
    (collectScores_cons v221112210 (collectScores_cons v221012211 collectScores_nil)) rfl

theorem t221012112 : readBoardAux P2 3 (⟨N2, N2, N1, N0, N1, N2, N1, N1, N2⟩ : Grid) P2 = some (ZM, none) :=
  rfl

theorem v221012012 : readBoardAux P2 4 (⟨N2, N2, N1, N0, N1, N2, N0, N1, N2⟩ : Grid) P1 = some (ZM, some M20) :=
  readBoardAux_step P2 3 (⟨N2, N2, N1, N0, N1, N2, N0, N1, N2⟩ : Grid) P1 [M10, M20] rfl rfl
    (collectScores_cons v221112012 (collectScores_cons t221012112 collectScores_nil)) rfl

theorem v221012010 : readBoardAux P2 5 (⟨N2, N2, N1, N0, N1, N2, N0, N1, N0⟩ : Grid) P2 = some (Z0, some M20) :=
  readBoardAux_step P2 4 (⟨N2, N2, N1, N0, N1, N2, N0, N1, N0⟩ : Grid) P2 [M10, M20, M22] rfl rfl
    (collectScores_cons v221212010 (collectScores_cons v221012210 (collectScores_cons v221012012 collectScores_nil))) rfl

theorem v221012201 : readBoardAux P2 4 (⟨N2, N2, N1, N0, N1, N2, N2, N0, N1⟩ : Grid) P1 = some (Z0, some M10) :=
  readBoardAux_step P2 3 (⟨N2, N2, N1, N0, N1, N2, N2, N0, N1⟩ : Grid) P1 [M10, M21] rfl rfl
    (collectScores_cons v221112201 (collectScores_cons v221012211 collectScores_nil)) rfl

theorem t221012121 : readBoardAux P2 3 (⟨N2, N2, N1, N0, N1, N2, N1, N2, N1⟩ : Grid) P2 = some (ZM, none) :=
  rfl

theorem v221012021 : readBoardAux P2 4 (⟨N2, N2, N1, N0, N1, N2, N0, N2, N1⟩ : Grid) P1 = some (ZM, some M20) :=
  readBoardAux_step P2 3 (⟨N2, N2, N1, N0, N1, N2, N0, N2, N1⟩ : Grid) P1 [M10, M20] rfl rfl
    (collectScores_cons v221112021 (collectScores_cons t221012121 collectScores_nil)) rfl

theorem v221012001 : readBoardAux P2 5 (⟨N2, N2, N1, N0, N1, N2, N0, N0, N1⟩ : Grid) P2 = some (Z0, some M20) :=
  readBoardAux_step P2 4 (⟨N2, N2, N1, N0, N1, N2, N0, N0, N1⟩ : Grid) P2 [M10, M20, M21] rfl rfl
    (collectScores_cons v221212001 (collectScores_cons v221012201 (collectScores_cons v221012021 collectScores_nil))) rfl

theorem v221012000 : readBoardAux P2 6 (⟨N2, N2, N1, N0, N1, N2, N0, N0, N0⟩ : Grid) P1 = some (ZM, some M20) :=
  readBoardAux_step P2 5 (⟨N2, N2, N1, N0, N1, N2, N0, N0, N0⟩ : Grid) P1 [M10, M20, M21, M22] rfl rfl
    (collectScores_cons v221112000 (collectScores_cons t221012100 (collectScores_cons v221012010 (collectScores_cons v221012001 collectScores_nil)))) rfl

theorem t221011221 : readBoardAux P2 3 (⟨N2, N2, N1, N0, N1, N1, N2, N2, N1⟩ : Grid) P2 = some (ZM, none) :=
  rfl

theorem v221011220 : readBoardAux P2 4 (⟨N2, N2, N1, N0, N1, N1, N2, N2, N0⟩ : Grid) P1 = some (ZM, some M10) :=
  readBoardAux_step P2 3 (⟨N2, N2, N1, N0, N1, N1, N2, N2, N0⟩ : Grid) P1 [M10, M22] rfl rfl
    (collectScores_cons t221111220 (collectScores_cons t221011221 collectScores_nil)) rfl

theorem v221011212 : readBoardAux P2 3 (⟨N2, N2, N1, N0, N1, N1, N2, N1, N2⟩ : Grid) P2 = some (ZP, some M10) :=
  readBoardAux_step P2 2 (⟨N2, N2, N1, N0, N1, N1, N2, N1, N2⟩ : Grid) P2 [M10] rfl rfl
    (collectScores_cons t221211212 collectScores_nil) rfl

theorem v221011202 : readBoardAux P2 4 (⟨N2, N2, N1, N0, N1, N1, N2, N0, N2⟩ : Grid) P1 = some (ZM, some M10) :=
  readBoardAux_step P2 3 (⟨N2, N2, N1, N0, N1, N1, N2, N0, N2⟩ : Grid) P1 [M10, M21] rfl rfl
    (collectScores_cons t221111202 (collectScores_cons v221011212 collectScores_nil)) rfl

theorem v221011200 : readBoardAux P2 5 (⟨N2, N2, N1, N0, N1, N1, N2, N0, N0⟩ : Grid) P2 = some (ZP, some M10) :=
  readBoardAux_step P2 4 (⟨N2, N2, N1, N0, N1, N1, N2, N0, N0⟩ : Grid) P2 [M10, M21, M22] rfl rfl
    (collectScores_cons t221211200 (collectScores_cons v221011220 (collectScores_cons v221011202 collectScores_nil))) rfl

theorem v221010212 : readBoardAux P2 4 (⟨N2, N2, N1, N0, N1, N0, N2, N1, N2⟩ : Grid) P1 = some (Z0, some M10) :=
  readBoardAux_step P2 3 (⟨N2, N2, N1, N0, N1, N0, N2, N1, N2⟩ : Grid) P1 [M10, M12] rfl rfl
    (collectScores_cons v221110212 (collectScores_cons v221011212 collectScores_nil)) rfl

theorem v221010210 : readBoardAux P2 5 (⟨N2, N2, N1, N0, N1, N0, N2, N1, N0⟩ : Grid) P2 = some (ZP, some M10) :=
  readBoardAux_step P2 4 (⟨N2, N2, N1, N0, N1, N0, N2, N1, N0⟩ : Grid) P2 [M10, M12, M22] rfl rfl
    (collectScores_cons t221210210 (collectScores_cons v221012210 (collectScores_cons v221010212 collectScores_nil))) rfl

theorem v221010221 : readBoardAux P2 4 (⟨N2, N2, N1, N0, N1, N0, N2, N2, N1⟩ : Grid) P1 = some (ZM, some M12) :=
  readBoardAux_step P2 3 (⟨N2, N2, N1, N0, N1, N0, N2, N2, N1⟩ : Grid) P1 [M10, M12] rfl rfl
    (collectScores_cons v221110221 (collectScores_cons t221011221 collectScores_nil)) rfl

theorem v221010201 : readBoardAux P2 5 (⟨N2, N2, N1, N0, N1, N0, N2, N0, N1⟩ : Grid) P2 = some (ZP, some M10) :=
  readBoardAux_step P2 4 (⟨N2, N2, N1, N0, N1, N0, N2, N0, N1⟩ : Grid) P2 [M10, M12, M21] rfl rfl
    (collectScores_cons t221210201 (collectScores_cons v221012201 (collectScores_cons v221010221 collectScores_nil))) rfl

theorem v221010200 : readBoardAux P2 6 (⟨N2, N2, N1, N0, N1, N0, N2, N0, N0⟩ : Grid) P1 = some (Z0, some M10) :=
  readBoardAux_step P2 5 (⟨N2, N2, N1, N0, N1, N0, N2, N0, N0⟩ : Grid) P1 [M10, M12, M21, M22] rfl rfl
    (collectScores_cons v221110200 (collectScores_cons v221011200 (collectScores_cons v221010210 (collectScores_cons v221010201 collectScores_nil)))) rfl

theorem t221011122 : readBoardAux P2 3 (⟨N2, N2, N1, N0, N1, N1, N1, N2, N2⟩ : Grid) P2 = some (ZM, none) :=
  rfl

theorem v221011022 : readBoardAux P2 4 (⟨N2, N2, N1, N0, N1, N1, N0, N2, N2⟩ : Grid) P1 = some (ZM, some M10) :=
  readBoardAux_step P2 3 (⟨N2, N2, N1, N0, N1, N1, N0, N2, N2⟩ : Grid) P1 [M10, M20] rfl rfl
    (collectScores_cons t221111022 (collectScores_cons t221011122 collectScores_nil)) rfl

theorem v221011020 : readBoardAux P2 5 (⟨N2, N2, N1, N0, N1, N1, N0, N2, N0⟩ : Grid) P2 = some (ZM, some M10) :=
  readBoardAux_step P2 4 (⟨N2, N2, N1, N0, N1, N1, N0, N2, N0⟩ : Grid) P2 [M10, M20, M22] rfl rfl
    (collectScores_cons v221211020 (collectScores_cons v221011220 (collectScores_cons v221011022 collectScores_nil))) rfl

theorem t221010120 : readBoardAux P2 5 (⟨N2, N2, N1, N0, N1, N0, N1, N2, N0⟩ : Grid) P2 = some (ZM, none) :=
  rfl

theorem v221010021 : readBoardAux P2 5 (⟨N2, N2, N1, N0, N1, N0, N0, N2, N1⟩ : Grid) P2 = some (ZM, some M10) :=
  readBoardAux_step P2 4 (⟨N2, N2, N1, N0, N1, N0, N0, N2, N1⟩ : Grid) P2 [M10, M12, M20] rfl rfl
    (collectScores_cons v221210021 (collectScores_cons v221012021 (collectScores_cons v221010221 collectScores_nil))) rfl

theorem v221010020 : readBoardAux P2 6 (⟨N2, N2, N1, N0, N1, N0, N0, N2, N0⟩ : Grid) P1 = some (ZM, some M10) :=
  readBoardAux_step P2 5 (⟨N2, N2, N1, N0, N1, N0, N0, N2, N0⟩ : Grid) P1 [M10, M12, M20, M22] rfl rfl
    (collectScores_cons v221110020 (collectScores_cons v221011020 (collectScores_cons t221010120 (collectScores_cons v221010021 collectScores_nil)))) rfl

theorem v221011002 : readBoardAux P2 5 (⟨N2, N2, N1, N0, N1, N1, N0, N0, N2⟩ : Grid) P2 = some (ZM, some M10) :=
  readBoardAux_step P2 4 (⟨N2, N2, N1, N0, N1, N1, N0, N0, N2⟩ : Grid) P2 [M10, M20, M21] rfl rfl
    (collectScores_cons v221211002 (collectScores_cons v221011202 (collectScores_cons v221011022 collectScores_nil))) rfl

theorem t221010102 : readBoardAux P2 5 (⟨N2, N2, N1, N0, N1, N0, N1, N0, N2⟩ : Grid) P2 = some (ZM, none) :=
  rfl

theorem v221010012 : readBoardAux P2 5 (⟨N2, N2, N1, N0, N1, N0, N0, N1, N2⟩ : Grid) P2 = some (Z0, some M20) :=
  readBoardAux_step P2 4 (⟨N2, N2, N1, N0, N1, N0, N0, N1, N2⟩ : Grid) P2 [M10, M12, M20] rfl rfl
    (collectScores_cons v221210012 (collectScores_cons v221012012 (collectScores_cons v221010212 collectScores_nil))) rfl

theorem v221010002 : readBoardAux P2 6 (⟨N2, N2, N1, N0, N1, N0, N0, N0, N2⟩ : Grid) P1 = some (ZM, some M10) :=
  readBoardAux_step P2 5 (⟨N2, N2, N1, N0, N1, N0, N0, N0, N2⟩ : Grid) P1 [M10, M12, M20, M21] rfl rfl
    (collectScores_cons v221110002 (collectScores_cons v221011002 (collectScores_cons t221010102 (collectScores_cons v221010012 collectScores_nil)))) rfl

theorem v221010000 : readBoardAux P2 7 (⟨N2, N2, N1, N0, N1, N0, N0, N0, N0⟩ : Grid) P2 = some (Z0, some M20) :=
  readBoardAux_step P2 6 (⟨N2, N2, N1, N0, N1, N0, N0, N0, N0⟩ : Grid) P2 [M10, M12, M20, M21, M22] rfl rfl
    (collectScores_cons v221210000 (collectScores_cons v221012000 (collectScores_cons v221010200 (collectScores_cons v221010020 (collectScores_cons v221010002 collectScores_nil))))) rfl

theorem t221221112 : readBoardAux P2 2 (⟨N2, N2, N1, N2, N2, N1, N1, N1, N2⟩ : Grid) P1 = some (ZP, none) :=
  rfl

theorem v221221110 : readBoardAux P2 3 (⟨N2, N2, N1, N2, N2, N1, N1, N1, N0⟩ : Grid) P2 = some (ZP, some M22) :=
  readBoardAux_step P2 2 (⟨N2, N2, N1, N2, N2, N1, N1, N1, N0⟩ : Grid) P2 [M22] rfl rfl
    (collectScores_cons t221221112 collectScores_nil) rfl

theorem t221221101 : readBoardAux P2 3 (⟨N2, N2, N1, N2, N2, N1, N1, N0, N1⟩ : Grid) P2 = some (ZM, none) :=
  rfl

theorem v221221100 : readBoardAux P2 4 (⟨N2, N2, N1, N2, N2, N1, N1, N0, N0⟩ : Grid) P1 = some (ZM, some M22) :=
  readBoardAux_step P2 3 (⟨N2, N2, N1, N2, N2, N1, N1, N0, N0⟩ : Grid) P1 [M21, M22] rfl rfl
    (collectScores_cons v221221110 (collectScores_cons t221221101 collectScores_nil)) rfl

theorem t221201121 : readBoardAux P2 3 (⟨N2, N2, N1, N2, N0, N1, N1, N2, N1⟩ : Grid) P2 = some (ZM, none) :=
  rfl

theorem v221201120 : readBoardAux P2 4 (⟨N2, N2, N1, N2, N0, N1, N1, N2, N0⟩ : Grid) P1 = some (ZM, some M11) :=
  readBoardAux_step P2 3 (⟨N2, N2, N1, N2, N0, N1, N1, N2, N0⟩ : Grid) P1 [M11, M22] rfl rfl
    (collectScores_cons t221211120 (collectScores_cons t221201121 collectScores_nil)) rfl

theorem v221201112 : readBoardAux P2 3 (⟨N2, N2, N1, N2, N0, N1, N1, N1, N2⟩ : Grid) P2 = some (ZP, some M11) :=
  readBoardAux_step P2 2 (⟨N2, N2, N1, N2, N0, N1, N1, N1, N2⟩ : Grid) P2 [M11] rfl rfl
    (collectScores_cons t221221112 collectScores_nil) rfl

theorem v221201102 : readBoardAux P2 4 (⟨N2, N2, N1, N2, N0, N1, N1, N0, N2⟩ : Grid) P1 = some (ZM, some M11) :=
  readBoardAux_step P2 3 (⟨N2, N2, N1, N2, N0, N1, N1, N0, N2⟩ : Grid) P1 [M11, M21] rfl rfl
    (collectScores_cons t221211102 (collectScores_cons v221201112 collectScores_nil)) rfl

theorem v221201100 : readBoardAux P2 5 (⟨N2, N2, N1, N2, N0, N1, N1, N0, N0⟩ : Grid) P2 = some (ZM, some M11) :=
  readBoardAux_step P2 4 (⟨N2, N2, N1, N2, N0, N1, N1, N0, N0⟩ : Grid) P2 [M11, M21, M22] rfl rfl
    (collectScores_cons v221221100 (collectScores_cons v221201120 (collectScores_cons v221201102 collectScores_nil))) rfl

theorem t221221011 : readBoardAux P2 3 (⟨N2, N2, N1, N2, N2, N1, N0, N1, N1⟩ : Grid) P2 = some (ZM, none) :=
  rfl

theorem v221221010 : readBoardAux P2 4 (⟨N2, N2, N1, N2, N2, N1, N0, N1, N0⟩ : Grid) P1 = some (ZM, some M22) :=
  readBoardAux_step P2 3 (⟨N2, N2, N1, N2, N2, N1, N0, N1, N0⟩ : Grid) P1 [M20, M22] rfl rfl
    (collectScores_cons v221221110 (collectScores_cons t221221011 collectScores_nil)) rfl

theorem t221201210 : readBoardAux P2 4 (⟨N2, N2, N1, N2, N0, N1, N2, N1, N0⟩ : Grid) P1 = some (ZP, none) :=
  rfl

theorem v221201012 : readBoardAux P2 4 (⟨N2, N2, N1, N2, N0, N1, N0, N1, N2⟩ : Grid) P1 = some (ZP, some M11) :=
  readBoardAux_step P2 3 (⟨N2, N2, N1, N2, N0, N1, N0, N1, N2⟩ : Grid) P1 [M11, M20] rfl rfl
    (collectScores_cons v221211012 (collectScores_cons v221201112 collectScores_nil)) rfl

theorem v221201010 : readBoardAux P2 5 (⟨N2, N2, N1, N2, N0, N1, N0, N1, N0⟩ : Grid) P2 = some (ZP, some M20) :=
  readBoardAux_step P2 4 (⟨N2, N2, N1, N2, N0, N1, N0, N1, N0⟩ : Grid) P2 [M11, M20, M22] rfl rfl
    (collectScores_cons v221221010 (collectScores_cons t221201210 (collectScores_cons v221201012 collectScores_nil))) rfl

theorem t221201001 : readBoardAux P2 5 (⟨N2, N2, N1, N2, N0, N1, N0, N0, N1⟩ : Grid) P2 = some (ZM, none) :=
  rfl

theorem v221201000 : readBoardAux P2 6 (⟨N2, N2, N1, N2, N0, N1, N0, N0, N0⟩ : Grid) P1 = some (ZM, some M20) :=
  readBoardAux_step P2 5 (⟨N2, N2, N1, N2, N0, N1, N0, N0, N0⟩ : Grid) P1 [M11, M20, M21, M22] rfl rfl
    (collectScores_cons v221211000 (collectScores_cons v221201100 (collectScores_cons v221201010 (collectScores_cons t221201001 collectScores_nil)))) rfl

theorem t221021120 : readBoardAux P2 4 (⟨N2, N2, N1, N0, N2, N1, N1, N2, N0⟩ : Grid) P1 = some (ZP, none) :=
  rfl

theorem t221021102 : readBoardAux P2 4 (⟨N2, N2, N1, N0, N2, N1, N1, N0, N2⟩ : Grid) P1 = some (ZP, none) :=
  rfl

theorem v221021100 : readBoardAux P2 5 (⟨N2, N2, N1, N0, N2, N1, N1, N0, N0⟩ : Grid) P2 = some (ZP, some M21) :=
  readBoardAux_step P2 4 (⟨N2, N2, N1, N0, N2, N1, N1, N0, N0⟩ : Grid) P2 [M10, M21, M22] rfl rfl
    (collectScores_cons v221221100 (collectScores_cons t221021120 (collectScores_cons t221021102 collectScores_nil))) rfl

theorem t221021211 : readBoardAux P2 3 (⟨N2, N2, N1, N0, N2, N1, N2, N1, N1⟩ : Grid) P2 = some (ZM, none) :=
  rfl

theorem v221021210 : readBoardAux P2 4 (⟨N2, N2, N1, N0, N2, N1, N2, N1, N0⟩ : Grid) P1 = some (ZM, some M22) :=
  readBoardAux_step P2 3 (⟨N2, N2, N1, N0, N2, N1, N2, N1, N0⟩ : Grid) P1 [M10, M22] rfl rfl
    (collectScores_cons v221121210 (collectScores_cons t221021211 collectScores_nil)) rfl

theorem t221021012 : readBoardAux P2 4 (⟨N2, N2, N1, N0, N2, N1, N0, N1, N2⟩ : Grid) P1 = some (ZP, none) :=
  rfl

theorem v221021010 : readBoardAux P2 5 (⟨N2, N2, N1, N0, N2, N1, N0, N1, N0⟩ : Grid) P2 = some (ZP, some M22) :=
  readBoardAux_step P2 4 (⟨N2, N2, N1, N0, N2, N1, N0, N1, N0⟩ : Grid) P2 [M10, M20, M22] rfl rfl
    (collectScores_cons v221221010 (collectScores_cons v221021210 (collectScores_cons t221021012 collectScores_nil))) rfl

theorem t221021001 : readBoardAux P2 5 (⟨N2, N2, N1, N0, N2, N1, N0, N0, N1⟩ : Grid) P2 = some (ZM, none) :=
  rfl

theorem v221021000 : readBoardAux P2 6 (⟨N2, N2, N1, N0, N2, N1, N0, N0, N0⟩ : Grid) P1 = some (ZM, some M22) :=
  readBoardAux_step P2 5 (⟨N2, N2, N1, N0, N2, N1, N0, N0, N0⟩ : Grid) P1 [M10, M20, M21, M22] rfl rfl
    (collectScores_cons v221121000 (collectScores_cons v221021100 (collectScores_cons v221021010 (collectScores_cons t221021001 collectScores_nil)))) rfl

theorem v221001212 : readBoardAux P2 4 (⟨N2, N2, N1, N0, N0, N1, N2, N1, N2⟩ : Grid) P1 = some (ZP, some M10) :=
  readBoardAux_step P2 3 (⟨N2, N2, N1, N0, N0, N1, N2, N1, N2⟩ : Grid) P1 [M10, M11] rfl rfl
    (collectScores_cons v221101212 (collectScores_cons v221011212 collectScores_nil)) rfl

theorem v221001210 : readBoardAux P2 5 (⟨N2, N2, N1, N0, N0, N1, N2, N1, N0⟩ : Grid) P2 = some (ZP, some M10) :=
  readBoardAux_step P2 4 (⟨N2, N2, N1, N0, N0, N1, N2, N1, N0⟩ : Grid) P2 [M10, M11, M22] rfl rfl
    (collectScores_cons t221201210 (collectScores_cons v221021210 (collectScores_cons v221001212 collectScores_nil))) rfl

theorem t221001201 : readBoardAux P2 5 (⟨N2, N2, N1, N0, N0, N1, N2, N0, N1⟩ : Grid) P2 = some (ZM, none) :=
  rfl

theorem v221001200 : readBoardAux P2 6 (⟨N2, N2, N1, N0, N0, N1, N2, N0, N0⟩ : Grid) P1 = some (ZM, some M10) :=
  readBoardAux_step P2 5 (⟨N2, N2, N1, N0, N0, N1, N2, N0, N0⟩ : Grid) P1 [M10, M11, M21, M22] rfl rfl
    (collectScores_cons v221101200 (collectScores_cons v221011200 (collectScores_cons v221001210 (collectScores_cons t221001201 collectScores_nil)))) rfl

theorem v221001122 : readBoardAux P2 4 (⟨N2, N2, N1, N0, N0, N1, N1, N2, N2⟩ : Grid) P1 = some (ZM, some M11) :=
  readBoardAux_step P2 3 (⟨N2, N2, N1, N0, N0, N1, N1, N2, N2⟩ : Grid) P1 [M10, M11] rfl rfl
    (collectScores_cons v221101122 (collectScores_cons t221011122 collectScores_nil)) rfl

theorem v221001120 : readBoardAux P2 5 (⟨N2, N2, N1, N0, N0, N1, N1, N2, N0⟩ : Grid) P2 = some (ZP, some M11) :=
  readBoardAux_step P2 4 (⟨N2, N2, N1, N0, N0, N1, N1, N2, N0⟩ : Grid) P2 [M10, M11, M22] rfl rfl
    (collectScores_cons v221201120 (collectScores_cons t221021120 (collectScores_cons v221001122 collectScores_nil))) rfl

theorem t221001021 : readBoardAux P2 5 (⟨N2, N2, N1, N0, N0, N1, N0, N2, N1⟩ : Grid) P2 = some (ZM, none) :=
  rfl

theorem v221001020 : readBoardAux P2 6 (⟨N2, N2, N1, N0, N0, N1, N0, N2, N0⟩ : Grid) P1 = some (ZM, some M11) :=
  readBoardAux_step P2 5 (⟨N2, N2, N1, N0, N0, N1, N0, N2, N0⟩ : Grid) P1 [M10, M11, M20, M22] rfl rfl
    (collectScores_cons v221101020 (collectScores_cons v221011020 (collectScores_cons v221001120 (collectScores_cons t221001021 collectScores_nil)))) rfl

theorem v221001102 : readBoardAux P2 5 (⟨N2, N2, N1, N0, N0, N1, N1, N0, N2⟩ : Grid) P2 = some (ZP, some M11) :=
  readBoardAux_step P2 4 (⟨N2, N2, N1, N0, N0, N1, N1, N0, N2⟩ : Grid) P2 [M10, M11, M21] rfl rfl
    (collectScores_cons v221201102 (collectScores_cons t221021102 (collectScores_cons v221001122 collectScores_nil))) rfl

theorem v221001012 : readBoardAux P2 5 (⟨N2, N2, N1, N0, N0, N1, N0, N1, N2⟩ : Grid) P2 = some (ZP, some M10) :=
  readBoardAux_step P2 4 (⟨N2, N2, N1, N0, N0, N1, N0, N1, N2⟩ : Grid) P2 [M10, M11, M20] rfl rfl
    (collectScores_cons v221201012 (collectScores_cons t221021012 (collectScores_cons v221001212 collectScores_nil))) rfl

theorem v221001002 : readBoardAux P2 6 (⟨N2, N2, N1, N0, N0, N1, N0, N0, N2⟩ : Grid) P1 = some (ZM, some M11) :=
  readBoardAux_step P2 5 (⟨N2, N2, N1, N0, N0, N1, N0, N0, N2⟩ : Grid) P1 [M10, M11, M20, M21] rfl rfl
    (collectScores_cons v221101002 (collectScores_cons v221011002 (collectScores_cons v221001102 (collectScores_cons v221001012 collectScores_nil)))) rfl

theorem v221001000 : readBoardAux P2 7 (⟨N2, N2, N1, N0, N0, N1, N0, N0, N0⟩ : Grid) P2 = some (ZM, some M10) :=
  readBoardAux_step P2 6 (⟨N2, N2, N1, N0, N0, N1, N0, N0, N0⟩ : Grid) P2 [M10, M11, M20, M21, M22] rfl rfl
    (collectScores_cons v221201000 (collectScores_cons v221021000 (collectScores_cons v221001200 (collectScores_cons v221001020 (collectScores_cons v221001002 collectScores_nil))))) rfl

theorem t221220111 : readBoardAux P2 3 (⟨N2, N2, N1, N2, N2, N0, N1, N1, N1⟩ : Grid) P2 = some (ZM, none) :=
  rfl

theorem v221220110 : readBoardAux P2 4 (⟨N2, N2, N1, N2, N2, N0, N1, N1, N0⟩ : Grid) P1 = some (ZM, some M22) :=
  readBoardAux_step P2 3 (⟨N2, N2, N1, N2, N2, N0, N1, N1, N0⟩ : Grid) P1 [M12, M22] rfl rfl
    (collectScores_cons v221221110 (collectScores_cons t221220111 collectScores_nil)) rfl

theorem t221202111 : readBoardAux P2 3 (⟨N2, N2, N1, N2, N0, N2, N1, N1, N1⟩ : Grid) P2 = some (ZM, none) :=
  rfl

theorem v221202110 : readBoardAux P2 4 (⟨N2, N2, N1, N2, N0, N2, N1, N1, N0⟩ : Grid) P1 = some (ZM, some M11) :=
  readBoardAux_step P2 3 (⟨N2, N2, N1, N2, N0, N2, N1, N1, N0⟩ : Grid) P1 [M11, M22] rfl rfl
    (collectScores_cons t221212110 (collectScores_cons t221202111 collectScores_nil)) rfl

theorem v221200112 : readBoardAux P2 4 (⟨N2, N2, N1, N2, N0, N0, N1, N1, N2⟩ : Grid) P1 = some (ZM, some M11) :=
  readBoardAux_step P2 3 (⟨N2, N2, N1, N2, N0, N0, N1, N1, N2⟩ : Grid) P1 [M11, M12] rfl rfl
    (collectScores_cons t221210112 (collectScores_cons v221201112 collectScores_nil)) rfl

theorem v221200110 : readBoardAux P2 5 (⟨N2, N2, N1, N2, N0, N0, N1, N1, N0⟩ : Grid) P2 = some (ZM, some M11) :=
  readBoardAux_step P2 4 (⟨N2, N2, N1, N2, N0, N0, N1, N1, N0⟩ : Grid) P2 [M11, M12, M22] rfl rfl
    (collectScores_cons v221220110 (collectScores_cons v221202110 (collectScores_cons v221200112 collectScores_nil))) rfl

theorem v221220101 : readBoardAux P2 4 (⟨N2, N2, N1, N2, N2, N0, N1, N0, N1⟩ : Grid) P1 = some (ZM, some M12) :=
  readBoardAux_step P2 3 (⟨N2, N2, N1, N2, N2, N0, N1, N0, N1⟩ : Grid) P1 [M12, M21] rfl rfl
    (collectScores_cons t221221101 (collectScores_cons t221220111 collectScores_nil)) rfl

theorem v221202101 : readBoardAux P2 4 (⟨N2, N2, N1, N2, N0, N2, N1, N0, N1⟩ : Grid) P1 = some (ZM, some M11) :=
  readBoardAux_step P2 3 (⟨N2, N2, N1, N2, N0, N2, N1, N0, N1⟩ : Grid) P1 [M11, M21] rfl rfl
    (collectScores_cons t221212101 (collectScores_cons t221202111 collectScores_nil)) rfl

theorem v221200121 : readBoardAux P2 4 (⟨N2, N2, N1, N2, N0, N0, N1, N2, N1⟩ : Grid) P1 = some (ZM, some M11) :=
  readBoardAux_step P2 3 (⟨N2, N2, N1, N2, N0, N0, N1, N2, N1⟩ : Grid) P1 [M11, M12] rfl rfl
    (collectScores_cons t221210121 (collectScores_cons t221201121 collectScores_nil)) rfl

theorem v221200101 : readBoardAux P2 5 (⟨N2, N2, N1, N2, N0, N0, N1, N0, N1⟩ : Grid) P2 = some (ZM, some M11) :=
  readBoardAux_step P2 4 (⟨N2, N2, N1, N2, N0, N0, N1, N0, N1⟩ : Grid) P2 [M11, M12, M21] rfl rfl
    (collectScores_cons v221220101 (collectScores_cons v221202101 (collectScores_cons v221200121 collectScores_nil))) rfl

theorem v221200100 : readBoardAux P2 6 (⟨N2, N2, N1, N2, N0, N0, N1, N0, N0⟩ : Grid) P1 = some (ZM, some M11) :=
  readBoardAux_step P2 5 (⟨N2, N2, N1, N2, N0, N0, N1, N0, N0⟩ : Grid) P1 [M11, M12, M21, M22] rfl rfl
    (collectScores_cons t221210100 (collectScores_cons v221201100 (collectScores_cons v221200110 (collectScores_cons v221200101 collectScores_nil)))) rfl

theorem t221022111 : readBoardAux P2 3 (⟨N2, N2, N1, N0, N2, N2, N1, N1, N1⟩ : Grid) P2 = some (ZM, none) :=
  rfl

theorem v221022110 : readBoardAux P2 4 (⟨N2, N2, N1, N0, N2, N2, N1, N1, N0⟩ : Grid) P1 = some (ZM, some M22) :=
  readBoardAux_step P2 3 (⟨N2, N2, N1, N0, N2, N2, N1, N1, N0⟩ : Grid) P1 [M10, M22] rfl rfl
    (collectScores_cons v221122110 (collectScores_cons t221022111 collectScores_nil)) rfl

theorem t221020112 : readBoardAux P2 4 (⟨N2, N2, N1, N0, N2, N0, N1, N1, N2⟩ : Grid) P1 = some (ZP, none) :=
  rfl

theorem v221020110 : readBoardAux P2 5 (⟨N2, N2, N1, N0, N2, N0, N1, N1, N0⟩ : Grid) P2 = some (ZP, some M22) :=
  readBoardAux_step P2 4 (⟨N2, N2, N1, N0, N2, N0, N1, N1, N0⟩ : Grid) P2 [M10, M12, M22] rfl rfl
    (collectScores_cons v221220110 (collectScores_cons v221022110 (collectScores_cons t221020112 collectScores_nil))) rfl

theorem v221022101 : readBoardAux P2 4 (⟨N2, N2, N1, N0, N2, N2, N1, N0, N1⟩ : Grid) P1 = some (ZM, some M21) :=
  readBoardAux_step P2 3 (⟨N2, N2, N1, N0, N2, N2, N1, N0, N1⟩ : Grid) P1 [M10, M21] rfl rfl
    (collectScores_cons v221122101 (collectScores_cons t221022111 collectScores_nil)) rfl

theorem t221020121 : readBoardAux P2 4 (⟨N2, N2, N1, N0, N2, N0, N1, N2, N1⟩ : Grid) P1 = some (ZP, none) :=
  rfl

theorem v221020101 : readBoardAux P2 5 (⟨N2, N2, N1, N0, N2, N0, N1, N0, N1⟩ : Grid) P2 = some (ZP, some M21) :=
  readBoardAux_step P2 4 (⟨N2, N2, N1, N0, N2, N0, N1, N0, N1⟩ : Grid) P2 [M10, M12, M21] rfl rfl
    (collectScores_cons v221220101 (collectScores_cons v221022101 (collectScores_cons t221020121 collectScores_nil))) rfl

theorem v221020100 : readBoardAux P2 6 (⟨N2, N2, N1, N0, N2, N0, N1, N0, N0⟩ : Grid) P1 = some (ZP, some M10) :=
  readBoardAux_step P2 5 (⟨N2, N2, N1, N0, N2, N0, N1, N0, N0⟩ : Grid) P1 [M10, M12, M21, M22] rfl rfl
    (collectScores_cons v221120100 (collectScores_cons v221021100 (collectScores_cons v221020110 (collectScores_cons v221020101 collectScores_nil)))) rfl

theorem v221002112 : readBoardAux P2 4 (⟨N2, N2, N1, N0, N0, N2, N1, N1, N2⟩ : Grid) P1 = some (ZM, some M11) :=
  readBoardAux_step P2 3 (⟨N2, N2, N1, N0, N0, N2, N1, N1, N2⟩ : Grid) P1 [M10, M11] rfl rfl
    (collectScores_cons v221102112 (collectScores_cons t221012112 collectScores_nil)) rfl

theorem v221002110 : readBoardAux P2 5 (⟨N2, N2, N1, N0, N0, N2, N1, N1, N0⟩ : Grid) P2 = some (ZM, some M10) :=
  readBoardAux_step P2 4 (⟨N2, N2, N1, N0, N0, N2, N1, N1, N0⟩ : Grid) P2 [M10, M11, M22] rfl rfl
    (collectScores_cons v221202110 (collectScores_cons v221022110 (collectScores_cons v221002112 collectScores_nil))) rfl

theorem v221002121 : readBoardAux P2 4 (⟨N2, N2, N1, N0, N0, N2, N1, N2, N1⟩ : Grid) P1 = some (ZM, some M11) :=
  readBoardAux_step P2 3 (⟨N2, N2, N1, N0, N0, N2, N1, N2, N1⟩ : Grid) P1 [M10, M11] rfl rfl
    (collectScores_cons v221102121 (collectScores_cons t221012121 collectScores_nil)) rfl

theorem v221002101 : readBoardAux P2 5 (⟨N2, N2, N1, N0, N0, N2, N1, N0, N1⟩ : Grid) P2 = some (ZM, some M10) :=
  readBoardAux_step P2 4 (⟨N2, N2, N1, N0, N0, N2, N1, N0, N1⟩ : Grid) P2 [M10, M11, M21] rfl rfl
    (collectScores_cons v221202101 (collectScores_cons v221022101 (collectScores_cons v221002121 collectScores_nil))) rfl

theorem v221002100 : readBoardAux P2 6 (⟨N2, N2, N1, N0, N0, N2, N1, N0, N0⟩ : Grid) P1 = some (ZM, some M11) :=
  readBoardAux_step P2 5 (⟨N2, N2, N1, N0, N0, N2, N1, N0, N0⟩ : Grid) P1 [M10, M11, M21, M22] rfl rfl
    (collectScores_cons v221102100 (collectScores_cons t221012100 (collectScores_cons v221002110 (collectScores_cons v221002101 collectScores_nil)))) rfl

theorem v221000121 : readBoardAux P2 5 (⟨N2, N2, N1, N0, N0, N0, N1, N2, N1⟩ : Grid) P2 = some (ZP, some M11) :=
  readBoardAux_step P2 4 (⟨N2, N2, N1, N0, N0, N0, N1, N2, N1⟩ : Grid) P2 [M10, M11, M12] rfl rfl
    (collectScores_cons v221200121 (collectScores_cons t221020121 (collectScores_cons v221002121 collectScores_nil))) rfl

theorem v221000120 : readBoardAux P2 6 (⟨N2, N2, N1, N0, N0, N0, N1, N2, N0⟩ : Grid) P1 = some (ZM, some M11) :=
  readBoardAux_step P2 5 (⟨N2, N2, N1, N0, N0, N0, N1, N2, N0⟩ : Grid) P1 [M10, M11, M12, M22] rfl rfl
    (collectScores_cons v221100120 (collectScores_cons t221010120 (collectScores_cons v221001120 (collectScores_cons v221000121 collectScores_nil)))) rfl

theorem v221000112 : readBoardAux P2 5 (⟨N2, N2, N1, N0, N0, N0, N1, N1, N2⟩ : Grid) P2 = some (ZP, some M11) :=
  readBoardAux_step P2 4 (⟨N2, N2, N1, N0, N0, N0, N1, N1, N2⟩ : Grid) P2 [M10, M11, M12] rfl rfl
    (collectScores_cons v221200112 (collectScores_cons t221020112 (collectScores_cons v221002112 collectScores_nil))) rfl

theorem v221000102 : readBoardAux P2 6 (⟨N2, N2, N1, N0, N0, N0, N1, N0, N2⟩ : Grid) P1 = some (ZM, some M11) :=
  readBoardAux_step P2 5 (⟨N2, N2, N1, N0, N0, N0, N1, N0, N2⟩ : Grid) P1 [M10, M11, M12, M21] rfl rfl
    (collectScores_cons v221100102 (collectScores_cons t221010102 (collectScores_cons v221001102 (collectScores_cons v221000112 collectScores_nil)))) rfl

theorem v221000100 : readBoardAux P2 7 (⟨N2, N2, N1, N0, N0, N0, N1, N0, N0⟩ : Grid) P2 = some (ZP, some M11) :=
  readBoardAux_step P2 6 (⟨N2, N2, N1, N0, N0, N0, N1, N0, N0⟩ : Grid) P2 [M10, M11, M12, M21, M22] rfl rfl
    (collectScores_cons v221200100 (collectScores_cons v221020100 (collectScores_cons v221002100 (collectScores_cons v221000120 (collectScores_cons v221000102 collectScores_nil))))) rfl

theorem v221220011 : readBoardAux P2 4 (⟨N2, N2, N1, N2, N2, N0, N0, N1, N1⟩ : Grid) P1 = some (ZM, some M12) :=
  readBoardAux_step P2 3 (⟨N2, N2, N1, N2, N2, N0, N0, N1, N1⟩ : Grid) P1 [M12, M20] rfl rfl
    (collectScores_cons t221221011 (collectScores_cons t221220111 collectScores_nil)) rfl

theorem v221202011 : readBoardAux P2 4 (⟨N2, N2, N1, N2, N0, N2, N0, N1, N1⟩ : Grid) P1 = some (ZM, some M20) :=
  readBoardAux_step P2 3 (⟨N2, N2, N1, N2, N0, N2, N0, N1, N1⟩ : Grid) P1 [M11, M20] rfl rfl
    (collectScores_cons v221212011 (collectScores_cons t221202111 collectScores_nil)) rfl

theorem t221200211 : readBoardAux P2 4 (⟨N2, N2, N1, N2, N0, N0, N2, N1, N1⟩ : Grid) P1 = some (ZP, none) :=
  rfl

theorem v221200011 : readBoardAux P2 5 (⟨N2, N2, N1, N2, N0, N0, N0, N1, N1⟩ : Grid) P2 = some (ZP, some M20) :=
  readBoardAux_step P2 4 (⟨N2, N2, N1, N2, N0, N0, N0, N1, N1⟩ : Grid) P2 [M11, M12, M20] rfl rfl
    (collectScores_cons v221220011 (collectScores_cons v221202011 (collectScores_cons t221200211 collectScores_nil))) rfl

theorem v221200010 : readBoardAux P2 6 (⟨N2, N2, N1, N2, N0, N0, N0, N1, N0⟩ : Grid) P1 = some (ZM, some M20) :=
  readBoardAux_step P2 5 (⟨N2, N2, N1, N2, N0, N0, N0, N1, N0⟩ : Grid) P1 [M11, M12, M20, M22] rfl rfl
    (collectScores_cons v221210010 (collectScores_cons v221201010 (collectScores_cons v221200110 (collectScores_cons v221200011 collectScores_nil)))) rfl

theorem v221022011 : readBoardAux P2 4 (⟨N2, N2, N1, N0, N2, N2, N0, N1, N1⟩ : Grid) P1 = some (ZM, some M20) :=
  readBoardAux_step P2 3 (⟨N2, N2, N1, N0, N2, N2, N0, N1, N1⟩ : Grid) P1 [M10, M20] rfl rfl
    (collectScores_cons v221122011 (collectScores_cons t221022111 collectScores_nil)) rfl

theorem v221020211 : readBoardAux P2 4 (⟨N2, N2, N1, N0, N2, N0, N2, N1, N1⟩ : Grid) P1 = some (ZM, some M12) :=
  readBoardAux_step P2 3 (⟨N2, N2, N1, N0, N2, N0, N2, N1, N1⟩ : Grid) P1 [M10, M12] rfl rfl
    (collectScores_cons v221120211 (collectScores_cons t221021211 collectScores_nil)) rfl

theorem v221020011 : readBoardAux P2 5 (⟨N2, N2, N1, N0, N2, N0, N0, N1, N1⟩ : Grid) P2 = some (ZM, some M10) :=
  readBoardAux_step P2 4 (⟨N2, N2, N1, N0, N2, N0, N0, N1, N1⟩ : Grid) P2 [M10, M12, M20] rfl rfl
    (collectScores_cons v221220011 (collectScores_cons v221022011 (collectScores_cons v221020211 collectScores_nil))) rfl

theorem v221020010 : readBoardAux P2 6 (⟨N2, N2, N1, N0, N2, N0, N0, N1, N0⟩ : Grid) P1 = some (ZM, some M22) :=
  readBoardAux_step P2 5 (⟨N2, N2, N1, N0, N2, N0, N0, N1, N0⟩ : Grid) P1 [M10, M12, M20, M22] rfl rfl
    (collectScores_cons v221120010 (collectScores_cons v221021010 (collectScores_cons v221020110 (collectScores_cons v221020011 collectScores_nil)))) rfl

theorem v221002211 : readBoardAux P2 4 (⟨N2, N2, N1, N0, N0, N2, N2, N1, N1⟩ : Grid) P1 = some (Z0, some M10) :=
  readBoardAux_step P2 3 (⟨N2, N2, N1, N0, N0, N2, N2, N1, N1⟩ : Grid) P1 [M10, M11] rfl rfl
    (collectScores_cons v221102211 (collectScores_cons v221012211 collectScores_nil)) rfl

theorem v221002011 : readBoardAux P2 5 (⟨N2, N2, N1, N0, N0, N2, N0, N1, N1⟩ : Grid) P2 = some (Z0, some M20) :=
  readBoardAux_step P2 4 (⟨N2, N2, N1, N0, N0, N2, N0, N1, N1⟩ : Grid) P2 [M10, M11, M20] rfl rfl
    (collectScores_cons v221202011 (collectScores_cons v221022011 (collectScores_cons v221002211 collectScores_nil))) rfl

theorem v221002010 : readBoardAux P2 6 (⟨N2, N2, N1, N0, N0, N2, N0, N1, N0⟩ : Grid) P1 = some (ZM, some M20) :=
  readBoardAux_step P2 5 (⟨N2, N2, N1, N0, N0, N2, N0, N1, N0⟩ : Grid) P1 [M10, M11, M20, M22] rfl rfl
    (collectScores_cons v221102010 (collectScores_cons v221012010 (collectScores_cons v221002110 (collectScores_cons v221002011 collectScores_nil)))) rfl

theorem v221000211 : readBoardAux P2 5 (⟨N2, N2, N1, N0, N0, N0, N2, N1, N1⟩ : Grid) P2 = some (ZP, some M10) :=
  readBoardAux_step P2 4 (⟨N2, N2, N1, N0, N0, N0, N2, N1, N1⟩ : Grid) P2 [M10, M11, M12] rfl rfl
    (collectScores_cons t221200211 (collectScores_cons v221020211 (collectScores_cons v221002211 collectScores_nil))) rfl

theorem v221000210 : readBoardAux P2 6 (⟨N2, N2, N1, N0, N0, N0, N2, N1, N0⟩ : Grid) P1 = some (Z0, some M10) :=
  readBoardAux_step P2 5 (⟨N2, N2, N1, N0, N0, N0, N2, N1, N0⟩ : Grid) P1 [M10, M11, M12, M22] rfl rfl
    (collectScores_cons v221100210 (collectScores_cons v221010210 (collectScores_cons v221001210 (collectScores_cons v221000211 collectScores_nil)))) rfl

theorem v221000012 : readBoardAux P2 6 (⟨N2, N2, N1, N0, N0, N0, N0, N1, N2⟩ : Grid) P1 = some (Z0, some M11) :=
  readBoardAux_step P2 5 (⟨N2, N2, N1, N0, N0, N0, N0, N1, N2⟩ : Grid) P1 [M10, M11, M12, M20] rfl rfl
    (collectScores_cons v221100012 (collectScores_cons v221010012 (collectScores_cons v221001012 (collectScores_cons v221000112 collectScores_nil)))) rfl

theorem v221000010 : readBoardAux P2 7 (⟨N2, N2, N1, N0, N0, N0, N0, N1, N0⟩ : Grid) P2 = some (Z0, some M20) :=
  readBoardAux_step P2 6 (⟨N2, N2, N1, N0, N0, N0, N0, N1, N0⟩ : Grid) P2 [M10, M11, M12, M20, M22] rfl rfl
    (collectScores_cons v221200010 (collectScores_cons v221020010 (collectScores_cons v221002010 (collectScores_cons v221000210 (collectScores_cons v221000012 collectScores_nil))))) rfl

theorem v221200001 : readBoardAux P2 6 (⟨N2, N2, N1, N2, N0, N0, N0, N0, N1⟩ : Grid) P1 = some (ZM, some M12) :=
  readBoardAux_step P2 5 (⟨N2, N2, N1, N2, N0, N0, N0, N0, N1⟩ : Grid) P1 [M11, M12, M20, M21] rfl rfl
    (collectScores_cons v221210001 (collectScores_cons t221201001 (collectScores_cons v221200101 (collectScores_cons v221200011 collectScores_nil)))) rfl

theorem v221020001 : readBoardAux P2 6 (⟨N2, N2, N1, N0, N2, N0, N0, N0, N1⟩ : Grid) P1 = some (ZM, some M12) :=
  readBoardAux_step P2 5 (⟨N2, N2, N1, N0, N2, N0, N0, N0, N1⟩ : Grid) P1 [M10, M12, M20, M21] rfl rfl
    (collectScores_cons v221120001 (collectScores_cons t221021001 (collectScores_cons v221020101 (collectScores_cons v221020011 collectScores_nil)))) rfl

theorem v221002001 : readBoardAux P2 6 (⟨N2, N2, N1, N0, N0, N2, N0, N0, N1⟩ : Grid) P1 = some (ZM, some M20) :=
  readBoardAux_step P2 5 (⟨N2, N2, N1, N0, N0, N2, N0, N0, N1⟩ : Grid) P1 [M10, M11, M20, M21] rfl rfl
    (collectScores_cons v221102001 (collectScores_cons v221012001 (collectScores_cons v221002101 (collectScores_cons v221002011 collectScores_nil)))) rfl

theorem v221000201 : readBoardAux P2 6 (⟨N2, N2, N1, N0, N0, N0, N2, N0, N1⟩ : Grid) P1 = some (ZM, some M12) :=
  readBoardAux_step P2 5 (⟨N2, N2, N1, N0, N0, N0, N2, N0, N1⟩ : Grid) P1 [M10, M11, M12, M21] rfl rfl
    (collectScores_cons v221100201 (collectScores_cons v221010201 (collectScores_cons t221001201 (collectScores_cons v221000211 collectScores_nil)))) rfl

theorem v221000021 : readBoardAux P2 6 (⟨N2, N2, N1, N0, N0, N0, N0, N2, N1⟩ : Grid) P1 = some (ZM, some M11) :=
  readBoardAux_step P2 5 (⟨N2, N2, N1, N0, N0, N0, N0, N2, N1⟩ : Grid) P1 [M10, M11, M12, M20] rfl rfl
    (collectScores_cons v221100021 (collectScores_cons v221010021 (collectScores_cons t221001021 (collectScores_cons v221000121 collectScores_nil)))) rfl

theorem v221000001 : readBoardAux P2 7 (⟨N2, N2, N1, N0, N0, N0, N0, N0, N1⟩ : Grid) P2 = some (ZM, some M10) :=
  readBoardAux_step P2 6 (⟨N2, N2, N1, N0, N0, N0, N0, N0, N1⟩ : Grid) P2 [M10, M11, M12, M20, M21] rfl rfl
    (collectScores_cons v221200001 (collectScores_cons v221020001 (collectScores_cons v221002001 (collectScores_cons v221000201 (collectScores_cons v221000021 collectScores_nil))))) rfl

theorem v221000000 : readBoardAux P2 8 (⟨N2, N2, N1, N0, N0, N0, N0, N0, N0⟩ : Grid) P1 = some (ZM, some M12) :=
  readBoardAux_step P2 7 (⟨N2, N2, N1, N0, N0, N0, N0, N0, N0⟩ : Grid) P1 [M10, M11, M12, M20, M21, M22] rfl rfl
    (collectScores_cons v221100000 (collectScores_cons v221010000 (collectScores_cons v221001000 (collectScores_cons v221000100 (collectScores_cons v221000010 (collectScores_cons v221000001 collectScores_nil)))))) rfl

theorem t201212100 : readBoardAux P2 5 (⟨N2, N0, N1, N2, N1, N2, N1, N0, N0⟩ : Grid) P2 = some (ZM, none) :=
  rfl

theorem t201212210 : readBoardAux P2 4 (⟨N2, N0, N1, N2, N1, N2, N2, N1, N0⟩ : Grid) P1 = some (ZP, none) :=
  rfl

theorem t201212112 : readBoardAux P2 3 (⟨N2, N0, N1, N2, N1, N2, N1, N1, N2⟩ : Grid) P2 = some (ZM, none) :=
  rfl

theorem v201212012 : readBoardAux P2 4 (⟨N2, N0, N1, N2, N1, N2, N0, N1, N2⟩ : Grid) P1 = some (ZM, some M01) :=
  readBoardAux_step P2 3 (⟨N2, N0, N1, N2, N1, N2, N0, N1, N2⟩ : Grid) P1 [M01, M20] rfl rfl
    (collectScores_cons t211212012 (collectScores_cons t201212112 collectScores_nil)) rfl

theorem v201212010 : readBoardAux P2 5 (⟨N2, N0, N1, N2, N1, N2, N0, N1, N0⟩ : Grid) P2 = some (ZP, some M20) :=
  readBoardAux_step P2 4 (⟨N2, N0, N1, N2, N1, N2, N0, N1, N0⟩ : Grid) P2 [M01, M20, M22] rfl rfl
    (collectScores_cons v221212010 (collectScores_cons t201212210 (collectScores_cons v201212012 collectScores_nil))) rfl

theorem t201212201 : readBoardAux P2 4 (⟨N2, N0, N1, N2, N1, N2, N2, N0, N1⟩ : Grid) P1 = some (ZP, none) :=
  rfl

theorem t201212121 : readBoardAux P2 3 (⟨N2, N0, N1, N2, N1, N2, N1, N2, N1⟩ : Grid) P2 = some (ZM, none) :=
  rfl

theorem v201212021 : readBoardAux P2 4 (⟨N2, N0, N1, N2, N1, N2, N0, N2, N1⟩ : Grid) P1 = some (ZM, some M20) :=
  readBoardAux_step P2 3 (⟨N2, N0, N1, N2, N1, N2, N0, N2, N1⟩ : Grid) P1 [M01, M20] rfl rfl
    (collectScores_cons v211212021 (collectScores_cons t201212121 collectScores_nil)) rfl

theorem v201212001 : readBoardAux P2 5 (⟨N2, N0, N1, N2, N1, N2, N0, N0, N1⟩ : Grid) P2 = some (ZP, some M20) :=
  readBoardAux_step P2 4 (⟨N2, N0, N1, N2, N1, N2, N0, N0, N1⟩ : Grid) P2 [M01, M20, M21] rfl rfl
    (collectScores_cons v221212001 (collectScores_cons t201212201 (collectScores_cons v201212021 collectScores_nil))) rfl

theorem v201212000 : readBoardAux P2 6 (⟨N2, N0, N1, N2, N1, N2, N0, N0, N0⟩ : Grid) P1 = some (ZM, some M20) :=
  readBoardAux_step P2 5 (⟨N2, N0, N1, N2, N1, N2, N0, N0, N0⟩ : Grid) P1 [M01, M20, M21, M22] rfl rfl
    (collectScores_cons v211212000 (collectScores_cons t201212100 (collectScores_cons v201212010 (collectScores_cons v201212001 collectScores_nil)))) rfl

theorem t201210200 : readBoardAux P2 6 (⟨N2, N0, N1, N2, N1, N0, N2, N0, N0⟩ : Grid) P1 = some (ZP, none) :=
  rfl

theorem t201211220 : readBoardAux P2 4 (⟨N2, N0, N1, N2, N1, N1, N2, N2, N0⟩ : Grid) P1 = some (ZP, none) :=
  rfl

theorem t201211122 : readBoardAux P2 3 (⟨N2, N0, N1, N2, N1, N1, N1, N2, N2⟩ : Grid) P2 = some (ZM, none) :=
  rfl

theorem v201211022 : readBoardAux P2 4 (⟨N2, N0, N1, N2, N1, N1, N0, N2, N2⟩ : Grid) P1 = some (ZM, some M20) :=
  readBoardAux_step P2 3 (⟨N2, N0, N1, N2, N1, N1, N0, N2, N2⟩ : Grid) P1 [M01, M20] rfl rfl
    (collectScores_cons v211211022 (collectScores_cons t201211122 collectScores_nil)) rfl

theorem v201211020 : readBoardAux P2 5 (⟨N2, N0, N1, N2, N1, N1, N0, N2, N0⟩ : Grid) P2 = some (ZP, some M20) :=
  readBoardAux_step P2 4 (⟨N2, N0, N1, N2, N1, N1, N0, N2, N0⟩ : Grid) P2 [M01, M20, M22] rfl rfl
    (collectScores_cons v221211020 (collectScores_cons t201211220 (collectScores_cons v201211022 collectScores_nil))) rfl

theorem t201210120 : readBoardAux P2 5 (⟨N2, N0, N1, N2, N1, N0, N1, N2, N0⟩ : Grid) P2 = some (ZM, none) :=
  rfl

theorem t201210221 : readBoardAux P2 4 (⟨N2, N0, N1, N2, N1, N0, N2, N2, N1⟩ : Grid) P1 = some (ZP, none) :=
  rfl

theorem v201210021 : readBoardAux P2 5 (⟨N2, N0, N1, N2, N1, N0, N0, N2, N1⟩ : Grid) P2 = some (ZP, some M20) :=
  readBoardAux_step P2 4 (⟨N2, N0, N1, N2, N1, N0, N0, N2, N1⟩ : Grid) P2 [M01, M12, M20] rfl rfl
    (collectScores_cons v221210021 (collectScores_cons v201212021 (collectScores_cons t201210221 collectScores_nil))) rfl

theorem v201210020 : readBoardAux P2 6 (⟨N2, N0, N1, N2, N1, N0, N0, N2, N0⟩ : Grid) P1 = some (ZM, some M20) :=
  readBoardAux_step P2 5 (⟨N2, N0, N1, N2, N1, N0, N0, N2, N0⟩ : Grid) P1 [M01, M12, M20, M22] rfl rfl
    (collectScores_cons v211210020 (collectScores_cons v201211020 (collectScores_cons t201210120 (collectScores_cons v201210021 collectScores_nil)))) rfl

theorem t201211202 : readBoardAux P2 4 (⟨N2, N0, N1, N2, N1, N1, N2, N0, N2⟩ : Grid) P1 = some (ZP, none) :=
  rfl

theorem v201211002 : readBoardAux P2 5 (⟨N2, N0, N1, N2, N1, N1, N0, N0, N2⟩ : Grid) P2 = some (ZP, some M20) :=
  readBoardAux_step P2 4 (⟨N2, N0, N1, N2, N1, N1, N0, N0, N2⟩ : Grid) P2 [M01, M20, M21] rfl rfl
    (collectScores_cons v221211002 (collectScores_cons t201211202 (collectScores_cons v201211022 collectScores_nil))) rfl

theorem t201210102 : readBoardAux P2 5 (⟨N2, N0, N1, N2, N1, N0, N1, N0, N2⟩ : Grid) P2 = some (ZM, none) :=
  rfl

theorem t201210212 : readBoardAux P2 4 (⟨N2, N0, N1, N2, N1, N0, N2, N1, N2⟩ : Grid) P1 = some (ZP, none) :=
  rfl

theorem v201210012 : readBoardAux P2 5 (⟨N2, N0, N1, N2, N1, N0, N0, N1, N2⟩ : Grid) P2 = some (ZP, some M20) :=
  readBoardAux_step P2 4 (⟨N2, N0, N1, N2, N1, N0, N0, N1, N2⟩ : Grid) P2 [M01, M12, M20] rfl rfl
    (collectScores_cons v221210012 (collectScores_cons v201212012 (collectScores_cons t201210212 collectScores_nil))) rfl

theorem v201210002 : readBoardAux P2 6 (⟨N2, N0, N1, N2, N1, N0, N0, N0, N2⟩ : Grid) P1 = some (ZM, some M20) :=
  readBoardAux_step P2 5 (⟨N2, N0, N1, N2, N1, N0, N0, N0, N2⟩ : Grid) P1 [M01, M12, M20, M21] rfl rfl
    (collectScores_cons v211210002 (collectScores_cons v201211002 (collectScores_cons t201210102 (collectScores_cons v201210012 collectScores_nil)))) rfl

theorem v201210000 : readBoardAux P2 7 (⟨N2, N0, N1, N2, N1, N0, N0, N0, N0⟩ : Grid) P2 = some (ZP, some M20) :=
  readBoardAux_step P2 6 (⟨N2, N0, N1, N2, N1, N0, N0, N0, N0⟩ : Grid) P2 [M01, M12, M20, M21, M22] rfl rfl
    (collectScores_cons v221210000 (collectScores_cons v201212000 (collectScores_cons t201210200 (collectScores_cons v201210020 (collectScores_cons v201210002 collectScores_nil))))) rfl

theorem t201221121 : readBoardAux P2 3 (⟨N2, N0, N1, N2, N2, N1, N1, N2, N1⟩ : Grid) P2 = some (ZM, none) :=
  rfl

theorem v201221120 : readBoardAux P2 4 (⟨N2, N0, N1, N2, N2, N1, N1, N2, N0⟩ : Grid) P1 = some (ZM, some M22) :=
  readBoardAux_step P2 3 (⟨N2, N0, N1, N2, N2, N1, N1, N2, N0⟩ : Grid) P1 [M01, M22] rfl rfl
    (collectScores_cons v211221120 (collectScores_cons t201221121 collectScores_nil)) rfl

theorem t201221102 : readBoardAux P2 4 (⟨N2, N0, N1, N2, N2, N1, N1, N0, N2⟩ : Grid) P1 = some (ZP, none) :=
  rfl

theorem v201221100 : readBoardAux P2 5 (⟨N2, N0, N1, N2, N2, N1, N1, N0, N0⟩ : Grid) P2 = some (ZP, some M22) :=
  readBoardAux_step P2 4 (⟨N2, N0, N1, N2, N2, N1, N1, N0, N0⟩ : Grid) P2 [M01, M21, M22] rfl rfl
    (collectScores_cons v221221100 (collectScores_cons v201221120 (collectScores_cons t201221102 collectScores_nil))) rfl

theorem t201221210 : readBoardAux P2 4 (⟨N2, N0, N1, N2, N2, N1, N2, N1, N0⟩ : Grid) P1 = some (ZP, none) :=
  rfl

theorem t201221012 : readBoardAux P2 4 (⟨N2, N0, N1, N2, N2, N1, N0, N1, N2⟩ : Grid) P1 = some (ZP, none) :=
  rfl

theorem v201221010 : readBoardAux P2 5 (⟨N2, N0, N1, N2, N2, N1, N0, N1, N0⟩ : Grid) P2 = some (ZP, some M20) :=
  readBoardAux_step P2 4 (⟨N2, N0, N1, N2, N2, N1, N0, N1, N0⟩ : Grid) P2 [M01, M20, M22] rfl rfl
    (collectScores_cons v221221010 (collectScores_cons t201221210 (collectScores_cons t201221012 collectScores_nil))) rfl

theorem t201221001 : readBoardAux P2 5 (⟨N2, N0, N1, N2, N2, N1, N0, N0, N1⟩ : Grid) P2 = some (ZM, none) :=
  rfl

theorem v201221000 : readBoardAux P2 6 (⟨N2, N0, N1, N2, N2, N1, N0, N0, N0⟩ : Grid) P1 = some (ZM, some M22) :=
  readBoardAux_step P2 5 (⟨N2, N0, N1, N2, N2, N1, N0, N0, N0⟩ : Grid) P1 [M01, M20, M21, M22] rfl rfl
    (collectScores_cons v211221000 (collectScores_cons v201221100 (collectScores_cons v201221010 (collectScores_cons t201221001 collectScores_nil)))) rfl

theorem t201201200 : readBoardAux P2 6 (⟨N2, N0, N1, N2, N0, N1, N2, N0, N0⟩ : Grid) P1 = some (ZP, none) :=
  rfl

theorem v201201122 : readBoardAux P2 4 (⟨N2, N0, N1, N2, N0, N1, N1, N2, N2⟩ : Grid) P1 = some (ZM, some M11) :=
  readBoardAux_step P2 3 (⟨N2, N0, N1, N2, N0, N1, N1, N2, N2⟩ : Grid) P1 [M01, M11] rfl rfl
    (collectScores_cons v211201122 (collectScores_cons t201211122 collectScores_nil)) rfl

theorem v201201120 : readBoardAux P2 5 (⟨N2, N0, N1, N2, N0, N1, N1, N2, N0⟩ : Grid) P2 = some (ZM, some M01) :=
  readBoardAux_step P2 4 (⟨N2, N0, N1, N2, N0, N1, N1, N2, N0⟩ : Grid) P2 [M01, M11, M22] rfl rfl
    (collectScores_cons v221201120 (collectScores_cons v201221120 (collectScores_cons v201201122 collectScores_nil))) rfl

theorem t201201021 : readBoardAux P2 5 (⟨N2, N0, N1, N2, N0, N1, N0, N2, N1⟩ : Grid) P2 = some (ZM, none) :=
  rfl

theorem v201201020 : readBoardAux P2 6 (⟨N2, N0, N1, N2, N0, N1, N0, N2, N0⟩ : Grid) P1 = some (ZM, some M20) :=
  readBoardAux_step P2 5 (⟨N2, N0, N1, N2, N0, N1, N0, N2, N0⟩ : Grid) P1 [M01, M11, M20, M22] rfl rfl
    (collectScores_cons v211201020 (collectScores_cons v201211020 (collectScores_cons v201201120 (collectScores_cons t201201021 collectScores_nil)))) rfl

theorem v201201102 : readBoardAux P2 5 (⟨N2, N0, N1, N2, N0, N1, N1, N0, N2⟩ : Grid) P2 = some (ZP, some M11) :=
  readBoardAux_step P2 4 (⟨N2, N0, N1, N2, N0, N1, N1, N0, N2⟩ : Grid) P2 [M01, M11, M21] rfl rfl
    (collectScores_cons v221201102 (collectScores_cons t201221102 (collectScores_cons v201201122 collectScores_nil))) rfl

theorem t201201212 : readBoardAux P2 4 (⟨N2, N0, N1, N2, N0, N1, N2, N1, N2⟩ : Grid) P1 = some (ZP, none) :=
  rfl

theorem v201201012 : readBoardAux P2 5 (⟨N2, N0, N1, N2, N0, N1, N0, N1, N2⟩ : Grid) P2 = some (ZP, some M01) :=
  readBoardAux_step P2 4 (⟨N2, N0, N1, N2, N0, N1, N0, N1, N2⟩ : Grid) P2 [M01, M11, M20] rfl rfl
    (collectScores_cons v221201012 (collectScores_cons t201221012 (collectScores_cons t201201212 collectScores_nil))) rfl

theorem v201201002 : readBoardAux P2 6 (⟨N2, N0, N1, N2, N0, N1, N0, N0, N2⟩ : Grid) P1 = some (ZP, some M01) :=
  readBoardAux_step P2 5 (⟨N2, N0, N1, N2, N0, N1, N0, N0, N2⟩ : Grid) P1 [M01, M11, M20, M21] rfl rfl
    (collectScores_cons v211201002 (collectScores_cons v201211002 (collectScores_cons v201201102 (collectScores_cons v201201012 collectScores_nil)))) rfl

theorem v201201000 : readBoardAux P2 7 (⟨N2, N0, N1, N2, N0, N1, N0, N0, N0⟩ : Grid) P2 = some (ZP, some M20) :=
  readBoardAux_step P2 6 (⟨N2, N0, N1, N2, N0, N1, N0, N0, N0⟩ : Grid) P2 [M01, M11, M20, M21, M22] rfl rfl
    (collectScores_cons v221201000 (collectScores_cons v201221000 (collectScores_cons t201201200 (collectScores_cons v201201020 (collectScores_cons v201201002 collectScores_nil))))) rfl

theorem t201222110 : readBoardAux P2 4 (⟨N2, N0, N1, N2, N2, N2, N1, N1, N0⟩ : Grid) P1 = some (ZP, none) :=
  rfl

theorem t201220112 : readBoardAux P2 4 (⟨N2, N0, N1, N2, N2, N0, N1, N1, N2⟩ : Grid) P1 = some (ZP, none) :=
  rfl

theorem v201220110 : readBoardAux P2 5 (⟨N2, N0, N1, N2, N2, N0, N1, N1, N0⟩ : Grid) P2 = some (ZP, some M12) :=
  readBoardAux_step P2 4 (⟨N2, N0, N1, N2, N2, N0, N1, N1, N0⟩ : Grid) P2 [M01, M12, M22] rfl rfl
    (collectScores_cons v221220110 (collectScores_cons t201222110 (collectScores_cons t201220112 collectScores_nil))) rfl

theorem t201222101 : readBoardAux P2 4 (⟨N2, N0, N1, N2, N2, N2, N1, N0, N1⟩ : Grid) P1 = some (ZP, none) :=
  rfl

theorem v201220121 : readBoardAux P2 4 (⟨N2, N0, N1, N2, N2, N0, N1, N2, N1⟩ : Grid) P1 = some (ZM, some M12) :=
  readBoardAux_step P2 3 (⟨N2, N0, N1, N2, N2, N0, N1, N2, N1⟩ : Grid) P1 [M01, M12] rfl rfl
    (collectScores_cons v211220121 (collectScores_cons t201221121 collectScores_nil)) rfl

theorem v201220101 : readBoardAux P2 5 (⟨N2, N0, N1, N2, N2, N0, N1, N0, N1⟩ : Grid) P2 = some (ZP, some M12) :=
  readBoardAux_step P2 4 (⟨N2, N0, N1, N2, N2, N0, N1, N0, N1⟩ : Grid) P2 [M01, M12, M21] rfl rfl
    (collectScores_cons v221220101 (collectScores_cons t201222101 (collectScores_cons v201220121 collectScores_nil))) rfl

theorem v201220100 : readBoardAux P2 6 (⟨N2, N0, N1, N2, N2, N0, N1, N0, N0⟩ : Grid) P1 = some (ZP, some M01) :=
  readBoardAux_step P2 5 (⟨N2, N0, N1, N2, N2, N0, N1, N0, N0⟩ : Grid) P1 [M01, M12, M21, M22] rfl rfl
    (collectScores_cons v211220100 (collectScores_cons v201221100 (collectScores_cons v201220110 (collectScores_cons v201220101 collectScores_nil)))) rfl

theorem v201202112 : readBoardAux P2 4 (⟨N2, N0, N1, N2, N0, N2, N1, N1, N2⟩ : Grid) P1 = some (ZM, some M11) :=
  readBoardAux_step P2 3 (⟨N2, N0, N1, N2, N0, N2, N1, N1, N2⟩ : Grid) P1 [M01, M11] rfl rfl
    (collectScores_cons v211202112 (collectScores_cons t201212112 collectScores_nil)) rfl

theorem v201202110 : readBoardAux P2 5 (⟨N2, N0, N1, N2, N0, N2, N1, N1, N0⟩ : Grid) P2 = some (ZP, some M11) :=
  readBoardAux_step P2 4 (⟨N2, N0, N1, N2, N0, N2, N1, N1, N0⟩ : Grid) P2 [M01, M11, M22] rfl rfl
    (collectScores_cons v221202110 (collectScores_cons t201222110 (collectScores_cons v201202112 collectScores_nil))) rfl

theorem v201202121 : readBoardAux P2 4 (⟨N2, N0, N1, N2, N0, N2, N1, N2, N1⟩ : Grid) P1 = some (ZM, some M11) :=
  readBoardAux_step P2 3 (⟨N2, N0, N1, N2, N0, N2, N1, N2, N1⟩ : Grid) P1 [M01, M11] rfl rfl
    (collectScores_cons v211202121 (collectScores_cons t201212121 collectScores_nil)) rfl

theorem v201202101 : readBoardAux P2 5 (⟨N2, N0, N1, N2, N0, N2, N1, N0, N1⟩ : Grid) P2 = some (ZP, some M11) :=
  readBoardAux_step P2 4 (⟨N2, N0, N1, N2, N0, N2, N1, N0, N1⟩ : Grid) P2 [M01, M11, M21] rfl rfl
    (collectScores_cons v221202101 (collectScores_cons t201222101 (collectScores_cons v201202121 collectScores_nil))) rfl

theorem v201202100 : readBoardAux P2 6 (⟨N2, N0, N1, N2, N0, N2, N1, N0, N0⟩ : Grid) P1 = some (ZM, some M11) :=
  readBoardAux_step P2 5 (⟨N2, N0, N1, N2, N0, N2, N1, N0, N0⟩ : Grid) P1 [M01, M11, M21, M22] rfl rfl
    (collectScores_cons v211202100 (collectScores_cons t201212100 (collectScores_cons v201202110 (collectScores_cons v201202101 collectScores_nil)))) rfl

theorem v201200121 : readBoardAux P2 5 (⟨N2, N0, N1, N2, N0, N0, N1, N2, N1⟩ : Grid) P2 = some (ZM, some M01) :=
  readBoardAux_step P2 4 (⟨N2, N0, N1, N2, N0, N0, N1, N2, N1⟩ : Grid) P2 [M01, M11, M12] rfl rfl
    (collectScores_cons v221200121 (collectScores_cons v201220121 (collectScores_cons v201202121 collectScores_nil))) rfl

theorem v201200120 : readBoardAux P2 6 (⟨N2, N0, N1, N2, N0, N0, N1, N2, N0⟩ : Grid) P1 = some (ZM, some M11) :=
  readBoardAux_step P2 5 (⟨N2, N0, N1, N2, N0, N0, N1, N2, N0⟩ : Grid) P1 [M01, M11, M12, M22] rfl rfl
    (collectScores_cons v211200120 (collectScores_cons t201210120 (collectScores_cons v201201120 (collectScores_cons v201200121 collectScores_nil)))) rfl

theorem v201200112 : readBoardAux P2 5 (⟨N2, N0, N1, N2, N0, N0, N1, N1, N2⟩ : Grid) P2 = some (ZP, some M11) :=
  readBoardAux_step P2 4 (⟨N2, N0, N1, N2, N0, N0, N1, N1, N2⟩ : Grid) P2 [M01, M11, M12] rfl rfl
    (collectScores_cons v221200112 (collectScores_cons t201220112 (collectScores_cons v201202112 collectScores_nil))) rfl

theorem v201200102 : readBoardAux P2 6 (⟨N2, N0, N1, N2, N0, N0, N1, N0, N2⟩ : Grid) P1 = some (ZM, some M11) :=
  readBoardAux_step P2 5 (⟨N2, N0, N1, N2, N0, N0, N1, N0, N2⟩ : Grid) P1 [M01, M11, M12, M21] rfl rfl
    (collectScores_cons v211200102 (collectScores_cons t201210102 (collectScores_cons v201201102 (collectScores_cons v201200112 collectScores_nil)))) rfl

theorem v201200100 : readBoardAux P2 7 (⟨N2, N0, N1, N2, N0, N0, N1, N0, N0⟩ : Grid) P2 = some (ZP, some M11) :=
  readBoardAux_step P2 6 (⟨N2, N0, N1, N2, N0, N0, N1, N0, N0⟩ : Grid) P2 [M01, M11, M12, M21, M22] rfl rfl
    (collectScores_cons v221200100 (collectScores_cons v201220100 (collectScores_cons v201202100 (collectScores_cons v201200120 (collectScores_cons v201200102 collectScores_nil))))) rfl

theorem t201222011 : readBoardAux P2 4 (⟨N2, N0, N1, N2, N2, N2, N0, N1, N1⟩ : Grid) P1 = some (ZP, none) :=
  rfl

theorem t201220211 : readBoardAux P2 4 (⟨N2, N0, N1, N2, N2, N0, N2, N1, N1⟩ : Grid) P1 = some (ZP, none) :=
  rfl

theorem v201220011 : readBoardAux P2 5 (⟨N2, N0, N1, N2, N2, N0, N0, N1, N1⟩ : Grid) P2 = some (ZP, some M12) :=
  readBoardAux_step P2 4 (⟨N2, N0, N1, N2, N2, N0, N0, N1, N1⟩ : Grid) P2 [M01, M12, M20] rfl rfl
    (collectScores_cons v221220011 (collectScores_cons t201222011 (collectScores_cons t201220211 collectScores_nil))) rfl

theorem v201220010 : readBoardAux P2 6 (⟨N2, N0, N1, N2, N2, N0, N0, N1, N0⟩ : Grid) P1 = some (ZP, some M01) :=
  readBoardAux_step P2 5 (⟨N2, N0, N1, N2, N2, N0, N0, N1, N0⟩ : Grid) P1 [M01, M12, M20, M22] rfl rfl
    (collectScores_cons v211220010 (collectScores_cons v201221010 (collectScores_cons v201220110 (collectScores_cons v201220011 collectScores_nil)))) rfl

theorem t201202211 : readBoardAux P2 4 (⟨N2, N0, N1, N2, N0, N2, N2, N1, N1⟩ : Grid) P1 = some (ZP, none) :=
  rfl

theorem v201202011 : readBoardAux P2 5 (⟨N2, N0, N1, N2, N0, N2, N0, N1, N1⟩ : Grid) P2 = some (ZP, some M11) :=
  readBoardAux_step P2 4 (⟨N2, N0, N1, N2, N0, N2, N0, N1, N1⟩ : Grid) P2 [M01, M11, M20] rfl rfl
    (collectScores_cons v221202011 (collectScores_cons t201222011 (collectScores_cons t201202211 collectScores_nil))) rfl

theorem v201202010 : readBoardAux P2 6 (⟨N2, N0, N1, N2, N0, N2, N0, N1, N0⟩ : Grid) P1 = some (ZP, some M01) :=
  readBoardAux_step P2 5 (⟨N2, N0, N1, N2, N0, N2, N0, N1, N0⟩ : Grid) P1 [M01, M11, M20, M22] rfl rfl
    (collectScores_cons v211202010 (collectScores_cons v201212010 (collectScores_cons v201202110 (collectScores_cons v201202011 collectScores_nil)))) rfl

theorem t201200210 : readBoardAux P2 6 (⟨N2, N0, N1, N2, N0, N0, N2, N1, N0⟩ : Grid) P1 = some (ZP, none) :=
  rfl

theorem v201200012 : readBoardAux P2 6 (⟨N2, N0, N1, N2, N0, N0, N0, N1, N2⟩ : Grid) P1 = some (ZP, some M01) :=
  readBoardAux_step P2 5 (⟨N2, N0, N1, N2, N0, N0, N0, N1, N2⟩ : Grid) P1 [M01, M11, M12, M20] rfl rfl
    (collectScores_cons v211200012 (collectScores_cons v201210012 (collectScores_cons v201201012 (collectScores_cons v201200112 collectScores_nil)))) rfl

theorem v201200010 : readBoardAux P2 7 (⟨N2, N0, N1, N2, N0, N0, N0, N1, N0⟩ : Grid) P2 = some (ZP, some M11) :=
  readBoardAux_step P2 6 (⟨N2, N0, N1, N2, N0, N0, N0, N1, N0⟩ : Grid) P2 [M01, M11, M12, M20, M22] rfl rfl
    (collectScores_cons v221200010 (collectScores_cons v201220010 (collectScores_cons v201202010 (collectScores_cons t201200210 (collectScores_cons v201200012 collectScores_nil))))) rfl

theorem v201220001 : readBoardAux P2 6 (⟨N2, N0, N1, N2, N2, N0, N0, N0, N1⟩ : Grid) P1 = some (ZM, some M12) :=
  readBoardAux_step P2 5 (⟨N2, N0, N1, N2, N2, N0, N0, N0, N1⟩ : Grid) P1 [M01, M12, M20, M21] rfl rfl
    (collectScores_cons v211220001 (collectScores_cons t201221001 (collectScores_cons v201220101 (collectScores_cons v201220011 collectScores_nil)))) rfl

theorem v201202001 : readBoardAux P2 6 (⟨N2, N0, N1, N2, N0, N2, N0, N0, N1⟩ : Grid) P1 = some (ZP, some M01) :=
  readBoardAux_step P2 5 (⟨N2, N0, N1, N2, N0, N2, N0, N0, N1⟩ : Grid) P1 [M01, M11, M20, M21] rfl rfl
    (collectScores_cons v211202001 (collectScores_cons v201212001 (collectScores_cons v201202101 (collectScores_cons v201202011 collectScores_nil)))) rfl

theorem t201200201 : readBoardAux P2 6 (⟨N2, N0, N1, N2, N0, N0, N2, N0, N1⟩ : Grid) P1 = some (ZP, none) :=
  rfl

theorem v201200021 : readBoardAux P2 6 (⟨N2, N0, N1, N2, N0, N0, N0, N2, N1⟩ : Grid) P1 = some (ZM, some M12) :=
  readBoardAux_step P2 5 (⟨N2, N0, N1, N2, N0, N0, N0, N2, N1⟩ : Grid) P1 [M01, M11, M12, M20] rfl rfl
    (collectScores_cons v211200021 (collectScores_cons v201210021 (collectScores_cons t201201021 (collectScores_cons v201200121 collectScores_nil)))) rfl

theorem v201200001 : readBoardAux P2 7 (⟨N2, N0, N1, N2, N0, N0, N0, N0, N1⟩ : Grid) P2 = some (ZP, some M12) :=
  readBoardAux_step P2 6 (⟨N2, N0, N1, N2, N0, N0, N0, N0, N1⟩ : Grid) P2 [M01, M11, M12, M20, M21] rfl rfl
    (collectScores_cons v221200001 (collectScores_cons v201220001 (collectScores_cons v201202001 (collectScores_cons t201200201 (collectScores_cons v201200021 collectScores_nil))))) rfl

theorem v201200000 : readBoardAux P2 8 (⟨N2, N0, N1, N2, N0, N0, N0, N0, N0⟩ : Grid) P1 = some (ZP, some M01) :=
  readBoardAux_step P2 7 (⟨N2, N0, N1, N2, N0, N0, N0, N0, N0⟩ : Grid) P1 [M01, M11, M12, M20, M21, M22] rfl rfl
    (collectScores_cons v211200000 (collectScores_cons v201210000 (collectScores_cons v201201000 (collectScores_cons v201200100 (collectScores_cons v201200010 (collectScores_cons v201200001 collectScores_nil)))))) rfl

theorem v201122121 : readBoardAux P2 3 (⟨N2, N0, N1, N1, N2, N2, N1, N2, N1⟩ : Grid) P2 = some (ZP, some M01) :=
  readBoardAux_step P2 2 (⟨N2, N0, N1, N1, N2, N2, N1, N2, N1⟩ : Grid) P2 [M01] rfl rfl
    (collectScores_cons t221122121 collectScores_nil) rfl

theorem v201122120 : readBoardAux P2 4 (⟨N2, N0, N1, N1, N2, N2, N1, N2, N0⟩ : Grid) P1 = some (ZP, some M01) :=
  readBoardAux_step P2 3 (⟨N2, N0, N1, N1, N2, N2, N1, N2, N0⟩ : Grid) P1 [M01, M22] rfl rfl
    (collectScores_cons v211122120 (collectScores_cons v201122121 collectScores_nil)) rfl

theorem t201122102 : readBoardAux P2 4 (⟨N2, N0, N1, N1, N2, N2, N1, N0, N2⟩ : Grid) P1 = some (ZP, none) :=
  rfl

theorem v201122100 : readBoardAux P2 5 (⟨N2, N0, N1, N1, N2, N2, N1, N0, N0⟩ : Grid) P2 = some (ZP, some M01) :=
  readBoardAux_step P2 4 (⟨N2, N0, N1, N1, N2, N2, N1, N0, N0⟩ : Grid) P2 [M01, M21, M22] rfl rfl
    (collectScores_cons v221122100 (collectScores_cons v201122120 (collectScores_cons t201122102 collectScores_nil))) rfl

theorem v201122211 : readBoardAux P2 3 (⟨N2, N0, N1, N1, N2, N2, N2, N1, N1⟩ : Grid) P2 = some (Z0, some M01) :=
  readBoardAux_step P2 2 (⟨N2, N0, N1, N1, N2, N2, N2, N1, N1⟩ : Grid) P2 [M01] rfl rfl
    (collectScores_cons t221122211 collectScores_nil) rfl

theorem v201122210 : readBoardAux P2 4 (⟨N2, N0, N1, N1, N2, N2, N2, N1, N0⟩ : Grid) P1 = some (Z0, some M22) :=
  readBoardAux_step P2 3 (⟨N2, N0, N1, N1, N2, N2, N2, N1, N0⟩ : Grid) P1 [M01, M22] rfl rfl
    (collectScores_cons v211122210 (collectScores_cons v201122211 collectScores_nil)) rfl

theorem t201122012 : readBoardAux P2 4 (⟨N2, N0, N1, N1, N2, N2, N0, N1, N2⟩ : Grid) P1 = some (ZP, none) :=
  rfl

theorem v201122010 : readBoardAux P2 5 (⟨N2, N0, N1, N1, N2, N2, N0, N1, N0⟩ : Grid) P2 = some (ZP, some M22) :=
  readBoardAux_step P2 4 (⟨N2, N0, N1, N1, N2, N2, N0, N1, N0⟩ : Grid) P2 [M01, M20, M22] rfl rfl
    (collectScores_cons v221122010 (collectScores_cons v201122210 (collectScores_cons t201122012 collectScores_nil))) rfl

theorem v201122201 : readBoardAux P2 4 (⟨N2, N0, N1, N1, N2, N2, N2, N0, N1⟩ : Grid) P1 = some (Z0, some M01) :=
  readBoardAux_step P2 3 (⟨N2, N0, N1, N1, N2, N2, N2, N0, N1⟩ : Grid) P1 [M01, M21] rfl rfl
    (collectScores_cons v211122201 (collectScores_cons v201122211 collectScores_nil)) rfl

theorem v201122021 : readBoardAux P2 4 (⟨N2, N0, N1, N1, N2, N2, N0, N2, N1⟩ : Grid) P1 = some (Z0, some M01) :=
  readBoardAux_step P2 3 (⟨N2, N0, N1, N1, N2, N2, N0, N2, N1⟩ : Grid) P1 [M01, M20] rfl rfl
    (collectScores_cons v211122021 (collectScores_cons v201122121 collectScores_nil)) rfl

theorem v201122001 : readBoardAux P2 5 (⟨N2, N0, N1, N1, N2, N2, N0, N0, N1⟩ : Grid) P2 = some (Z0, some M01) :=
  readBoardAux_step P2 4 (⟨N2, N0, N1, N1, N2, N2, N0, N0, N1⟩ : Grid) P2 [M01, M20, M21] rfl rfl
    (collectScores_cons v221122001 (collectScores_cons v201122201 (collectScores_cons v201122021 collectScores_nil))) rfl

theorem v201122000 : readBoardAux P2 6 (⟨N2, N0, N1, N1, N2, N2, N0, N0, N0⟩ : Grid) P1 = some (Z0, some M22) :=
  readBoardAux_step P2 5 (⟨N2, N0, N1, N1, N2, N2, N0, N0, N0⟩ : Grid) P1 [M01, M20, M21, M22] rfl rfl
    (collectScores_cons v211122000 (collectScores_cons v201122100 (collectScores_cons v201122010 (collectScores_cons v201122001 collectScores_nil)))) rfl

theorem t201121221 : readBoardAux P2 3 (⟨N2, N0, N1, N1, N2, N1, N2, N2, N1⟩ : Grid) P2 = some (ZM, none) :=
  rfl

theorem v201121220 : readBoardAux P2 4 (⟨N2, N0, N1, N1, N2, N1, N2, N2, N0⟩ : Grid) P1 = some (ZM, some M22) :=
  readBoardAux_step P2 3 (⟨N2, N0, N1, N1, N2, N1, N2, N2, N0⟩ : Grid) P1 [M01, M22] rfl rfl
    (collectScores_cons v211121220 (collectScores_cons t201121221 collectScores_nil)) rfl

theorem t201121202 : readBoardAux P2 4 (⟨N2, N0, N1, N1, N2, N1, N2, N0, N2⟩ : Grid) P1 = some (ZP, none) :=
  rfl

theorem v201121200 : readBoardAux P2 5 (⟨N2, N0, N1, N1, N2, N1, N2, N0, N0⟩ : Grid) P2 = some (ZP, some M22) :=
  readBoardAux_step P2 4 (⟨N2, N0, N1, N1, N2, N1, N2, N0, N0⟩ : Grid) P2 [M01, M21, M22] rfl rfl
    (collectScores_cons v221121200 (collectScores_cons v201121220 (collectScores_cons t201121202 collectScores_nil))) rfl

theorem t201120212 : readBoardAux P2 4 (⟨N2, N0, N1, N1, N2, N0, N2, N1, N2⟩ : Grid) P1 = some (ZP, none) :=
  rfl

theorem v201120210 : readBoardAux P2 5 (⟨N2, N0, N1, N1, N2, N0, N2, N1, N0⟩ : Grid) P2 = some (ZP, some M22) :=
  readBoardAux_step P2 4 (⟨N2, N0, N1, N1, N2, N0, N2, N1, N0⟩ : Grid) P2 [M01, M12, M22] rfl rfl
    (collectScores_cons v221120210 (collectScores_cons v201122210 (collectScores_cons t201120212 collectScores_nil))) rfl

theorem v201120221 : readBoardAux P2 4 (⟨N2, N0, N1, N1, N2, N0, N2, N2, N1⟩ : Grid) P1 = some (ZM, some M12) :=
  readBoardAux_step P2 3 (⟨N2, N0, N1, N1, N2, N0, N2, N2, N1⟩ : Grid) P1 [M01, M12] rfl rfl
    (collectScores_cons v211120221 (collectScores_cons t201121221 collectScores_nil)) rfl

theorem v201120201 : readBoardAux P2 5 (⟨N2, N0, N1, N1, N2, N0, N2, N0, N1⟩ : Grid) P2 = some (Z0, some M12) :=
  readBoardAux_step P2 4 (⟨N2, N0, N1, N1, N2, N0, N2, N0, N1⟩ : Grid) P2 [M01, M12, M21] rfl rfl
    (collectScores_cons v221120201 (collectScores_cons v201122201 (collectScores_cons v201120221 collectScores_nil))) rfl

theorem v201120200 : readBoardAux P2 6 (⟨N2, N0, N1, N1, N2, N0, N2, N0, N0⟩ : Grid) P1 = some (Z0, some M22) :=
  readBoardAux_step P2 5 (⟨N2, N0, N1, N1, N2, N0, N2, N0, N0⟩ : Grid) P1 [M01, M12, M21, M22] rfl rfl
    (collectScores_cons v211120200 (collectScores_cons v201121200 (collectScores_cons v201120210 (collectScores_cons v201120201 collectScores_nil)))) rfl

theorem t201121022 : readBoardAux P2 4 (⟨N2, N0, N1, N1, N2, N1, N0, N2, N2⟩ : Grid) P1 = some (ZP, none) :=
  rfl

theorem v201121020 : readBoardAux P2 5 (⟨N2, N0, N1, N1, N2, N1, N0, N2, N0⟩ : Grid) P2 = some (ZP, some M01) :=
  readBoardAux_step P2 4 (⟨N2, N0, N1, N1, N2, N1, N0, N2, N0⟩ : Grid) P2 [M01, M20, M22] rfl rfl
    (collectScores_cons t221121020 (collectScores_cons v201121220 (collectScores_cons t201121022 collectScores_nil))) rfl

theorem t201120122 : readBoardAux P2 4 (⟨N2, N0, N1, N1, N2, N0, N1, N2, N2⟩ : Grid) P1 = some (ZP, none) :=
  rfl

theorem v201120120 : readBoardAux P2 5 (⟨N2, N0, N1, N1, N2, N0, N1, N2, N0⟩ : Grid) P2 = some (ZP, some M01) :=
  readBoardAux_step P2 4 (⟨N2, N0, N1, N1, N2, N0, N1, N2, N0⟩ : Grid) P2 [M01, M12, M22] rfl rfl
    (collectScores_cons t221120120 (collectScores_cons v201122120 (collectScores_cons t201120122 collectScores_nil))) rfl

theorem v201120021 : readBoardAux P2 5 (⟨N2, N0, N1, N1, N2, N0, N0, N2, N1⟩ : Grid) P2 = some (ZP, some M01) :=
  readBoardAux_step P2 4 (⟨N2, N0, N1, N1, N2, N0, N0, N2, N1⟩ : Grid) P2 [M01, M12, M20] rfl rfl
    (collectScores_cons t221120021 (collectScores_cons v201122021 (collectScores_cons v201120221 collectScores_nil))) rfl

theorem v201120020 : readBoardAux P2 6 (⟨N2, N0, N1, N1, N2, N0, N0, N2, N0⟩ : Grid) P1 = some (ZP, some M01) :=
  readBoardAux_step P2 5 (⟨N2, N0, N1, N1, N2, N0, N0, N2, N0⟩ : Grid) P1 [M01, M12, M20, M22] rfl rfl
    (collectScores_cons v211120020 (collectScores_cons v201121020 (collectScores_cons v201120120 (collectScores_cons v201120021 collectScores_nil)))) rfl

theorem t201120002 : readBoardAux P2 6 (⟨N2, N0, N1, N1, N2, N0, N0, N0, N2⟩ : Grid) P1 = some (ZP, none) :=
  rfl

theorem v201120000 : readBoardAux P2 7 (⟨N2, N0, N1, N1, N2, N0, N0, N0, N0⟩ : Grid) P2 = some (ZP, some M01) :=
  readBoardAux_step P2 6 (⟨N2, N0, N1, N1, N2, N0, N0, N0, N0⟩ : Grid) P2 [M01, M12, M20, M21, M22] rfl rfl
    (collectScores_cons v221120000 (collectScores_cons v201122000 (collectScores_cons v201120200 (collectScores_cons v201120020 (collectScores_cons t201120002 collectScores_nil))))) rfl

theorem t201021212 : readBoardAux P2 4 (⟨N2, N0, N1, N0, N2, N1, N2, N1, N2⟩ : Grid) P1 = some (ZP, none) :=
  rfl

theorem v201021210 : readBoardAux P2 5 (⟨N2, N0, N1, N0, N2, N1, N2, N1, N0⟩ : Grid) P2 = some (ZP, some M10) :=
  readBoardAux_step P2 4 (⟨N2, N0, N1, N0, N2, N1, N2, N1, N0⟩ : Grid) P2 [M01, M10, M22] rfl rfl
    (collectScores_cons v221021210 (collectScores_cons t201221210 (collectScores_cons t201021212 collectScores_nil))) rfl

theorem t201021201 : readBoardAux P2 5 (⟨N2, N0, N1, N0, N2, N1, N2, N0, N1⟩ : Grid) P2 = some (ZM, none) :=
  rfl

theorem v201021200 : readBoardAux P2 6 (⟨N2, N0, N1, N0, N2, N1, N2, N0, N0⟩ : Grid) P1 = some (ZM, some M22) :=
  readBoardAux_step P2 5 (⟨N2, N0, N1, N0, N2, N1, N2, N0, N0⟩ : Grid) P1 [M01, M10, M21, M22] rfl rfl
    (collectScores_cons v211021200 (collectScores_cons v201121200 (collectScores_cons v201021210 (collectScores_cons t201021201 collectScores_nil)))) rfl

theorem t201021122 : readBoardAux P2 4 (⟨N2, N0, N1, N0, N2, N1, N1, N2, N2⟩ : Grid) P1 = some (ZP, none) :=
  rfl

theorem v201021120 : readBoardAux P2 5 (⟨N2, N0, N1, N0, N2, N1, N1, N2, N0⟩ : Grid) P2 = some (ZP, some M01) :=
  readBoardAux_step P2 4 (⟨N2, N0, N1, N0, N2, N1, N1, N2, N0⟩ : Grid) P2 [M01, M10, M22] rfl rfl
    (collectScores_cons t221021120 (collectScores_cons v201221120 (collectScores_cons t201021122 collectScores_nil))) rfl

theorem t201021021 : readBoardAux P2 5 (⟨N2, N0, N1, N0, N2, N1, N0, N2, N1⟩ : Grid) P2 = some (ZM, none) :=
  rfl

theorem v201021020 : readBoardAux P2 6 (⟨N2, N0, N1, N0, N2, N1, N0, N2, N0⟩ : Grid) P1 = some (ZM, some M22) :=
  readBoardAux_step P2 5 (⟨N2, N0, N1, N0, N2, N1, N0, N2, N0⟩ : Grid) P1 [M01, M10, M20, M22] rfl rfl
    (collectScores_cons v211021020 (collectScores_cons v201121020 (collectScores_cons v201021120 (collectScores_cons t201021021 collectScores_nil)))) rfl

theorem t201021002 : readBoardAux P2 6 (⟨N2, N0, N1, N0, N2, N1, N0, N0, N2⟩ : Grid) P1 = some (ZP, none) :=
  rfl

theorem v201021000 : readBoardAux P2 7 (⟨N2, N0, N1, N0, N2, N1, N0, N0, N0⟩ : Grid) P2 = some (ZP, some M22) :=
  readBoardAux_step P2 6 (⟨N2, N0, N1, N0, N2, N1, N0, N0, N0⟩ : Grid) P2 [M01, M10, M20, M21, M22] rfl rfl
    (collectScores_cons v221021000 (collectScores_cons v201221000 (collectScores_cons v201021200 (collectScores_cons v201021020 (collectScores_cons t201021002 collectScores_nil))))) rfl

theorem t201022112 : readBoardAux P2 4 (⟨N2, N0, N1, N0, N2, N2, N1, N1, N2⟩ : Grid) P1 = some (ZP, none) :=
  rfl

theorem v201022110 : readBoardAux P2 5 (⟨N2, N0, N1, N0, N2, N2, N1, N1, N0⟩ : Grid) P2 = some (ZP, some M10) :=
  readBoardAux_step P2 4 (⟨N2, N0, N1, N0, N2, N2, N1, N1, N0⟩ : Grid) P2 [M01, M10, M22] rfl rfl
    (collectScores_cons v221022110 (collectScores_cons t201222110 (collectScores_cons t201022112 collectScores_nil))) rfl

theorem v201022121 : readBoardAux P2 4 (⟨N2, N0, N1, N0, N2, N2, N1, N2, N1⟩ : Grid) P1 = some (ZP, some M01) :=
  readBoardAux_step P2 3 (⟨N2, N0, N1, N0, N2, N2, N1, N2, N1⟩ : Grid) P1 [M01, M10] rfl rfl
    (collectScores_cons v211022121 (collectScores_cons v201122121 collectScores_nil)) rfl

theorem v201022101 : readBoardAux P2 5 (⟨N2, N0, N1, N0, N2, N2, N1, N0, N1⟩ : Grid) P2 = some (ZP, some M10) :=
  readBoardAux_step P2 4 (⟨N2, N0, N1, N0, N2, N2, N1, N0, N1⟩ : Grid) P2 [M01, M10, M21] rfl rfl
    (collectScores_cons v221022101 (collectScores_cons t201222101 (collectScores_cons v201022121 collectScores_nil))) rfl

theorem v201022100 : readBoardAux P2 6 (⟨N2, N0, N1, N0, N2, N2, N1, N0, N0⟩ : Grid) P1 = some (ZP, some M01) :=
  readBoardAux_step P2 5 (⟨N2, N0, N1, N0, N2, N2, N1, N0, N0⟩ : Grid) P1 [M01, M10, M21, M22] rfl rfl
    (collectScores_cons v211022100 (collectScores_cons v201122100 (collectScores_cons v201022110 (collectScores_cons v201022101 collectScores_nil)))) rfl

theorem v201020121 : readBoardAux P2 5 (⟨N2, N0, N1, N0, N2, N0, N1, N2, N1⟩ : Grid) P2 = some (ZP, some M01) :=
  readBoardAux_step P2 4 (⟨N2, N0, N1, N0, N2, N0, N1, N2, N1⟩ : Grid) P2 [M01, M10, M12] rfl rfl
    (collectScores_cons t221020121 (collectScores_cons v201220121 (collectScores_cons v201022121 collectScores_nil))) rfl

theorem v201020120 : readBoardAux P2 6 (⟨N2, N0, N1, N0, N2, N0, N1, N2, N0⟩ : Grid) P1 = some (ZP, some M01) :=
  readBoardAux_step P2 5 (⟨N2, N0, N1, N0, N2, N0, N1, N2, N0⟩ : Grid) P1 [M01, M10, M12, M22] rfl rfl
    (collectScores_cons v211020120 (collectScores_cons v201120120 (collectScores_cons v201021120 (collectScores_cons v201020121 collectScores_nil)))) rfl

theorem t201020102 : readBoardAux P2 6 (⟨N2, N0, N1, N0, N2, N0, N1, N0, N2⟩ : Grid) P1 = some (ZP, none) :=
  rfl

theorem v201020100 : readBoardAux P2 7 (⟨N2, N0, N1, N0, N2, N0, N1, N0, N0⟩ : Grid) P2 = some (ZP, some M01) :=
  readBoardAux_step P2 6 (⟨N2, N0, N1, N0, N2, N0, N1, N0, N0⟩ : Grid) P2 [M01, M10, M12, M21, M22] rfl rfl
    (collectScores_cons v221020100 (collectScores_cons v201220100 (collectScores_cons v201022100 (collectScores_cons v201020120 (collectScores_cons t201020102 collectScores_nil))))) rfl

theorem v201022211 : readBoardAux P2 4 (⟨N2, N0, N1, N0, N2, N2, N2, N1, N1⟩ : Grid) P1 = some (Z0, some M10) :=
  readBoardAux_step P2 3 (⟨N2, N0, N1, N0, N2, N2, N2, N1, N1⟩ : Grid) P1 [M01, M10] rfl rfl
    (collectScores_cons v211022211 (collectScores_cons v201122211 collectScores_nil)) rfl

theorem v201022011 : readBoardAux P2 5 (⟨N2, N0, N1, N0, N2, N2, N0, N1, N1⟩ : Grid) P2 = some (ZP, some M10) :=
  readBoardAux_step P2 4 (⟨N2, N0, N1, N0, N2, N2, N0, N1, N1⟩ : Grid) P2 [M01, M10, M20] rfl rfl
    (collectScores_cons v221022011 (collectScores_cons t201222011 (collectScores_cons v201022211 collectScores_nil))) rfl

theorem v201022010 : readBoardAux P2 6 (⟨N2, N0, N1, N0, N2, N2, N0, N1, N0⟩ : Grid) P1 = some (ZP, some M01) :=
  readBoardAux_step P2 5 (⟨N2, N0, N1, N0, N2, N2, N0, N1, N0⟩ : Grid) P1 [M01, M10, M20, M22] rfl rfl
    (collectScores_cons v211022010 (collectScores_cons v201122010 (collectScores_cons v201022110 (collectScores_cons v201022011 collectScores_nil)))) rfl

theorem v201020211 : readBoardAux P2 5 (⟨N2, N0, N1, N0, N2, N0, N2, N1, N1⟩ : Grid) P2 = some (ZP, some M10) :=
  readBoardAux_step P2 4 (⟨N2, N0, N1, N0, N2, N0, N2, N1, N1⟩ : Grid) P2 [M01, M10, M12] rfl rfl
    (collectScores_cons v221020211 (collectScores_cons t201220211 (collectScores_cons v201022211 collectScores_nil))) rfl

theorem v201020210 : readBoardAux P2 6 (⟨N2, N0, N1, N0, N2, N0, N2, N1, N0⟩ : Grid) P1 = some (ZP, some M01) :=
  readBoardAux_step P2 5 (⟨N2, N0, N1, N0, N2, N0, N2, N1, N0⟩ : Grid) P1 [M01, M10, M12, M22] rfl rfl
    (collectScores_cons v211020210 (collectScores_cons v201120210 (collectScores_cons v201021210 (collectScores_cons v201020211 collectScores_nil)))) rfl

theorem t201020012 : readBoardAux P2 6 (⟨N2, N0, N1, N0, N2, N0, N0, N1, N2⟩ : Grid) P1 = some (ZP, none) :=
  rfl

theorem v201020010 : readBoardAux P2 7 (⟨N2, N0, N1, N0, N2, N0, N0, N1, N0⟩ : Grid) P2 = some (ZP, some M10) :=
  readBoardAux_step P2 6 (⟨N2, N0, N1, N0, N2, N0, N0, N1, N0⟩ : Grid) P2 [M01, M10, M12, M20, M22] rfl rfl
    (collectScores_cons v221020010 (collectScores_cons v201220010 (collectScores_cons v201022010 (collectScores_cons v201020210 (collectScores_cons t201020012 collectScores_nil))))) rfl

theorem v201022001 : readBoardAux P2 6 (⟨N2, N0, N1, N0, N2, N2, N0, N0, N1⟩ : Grid) P1 = some (Z0, some M10) :=
  readBoardAux_step P2 5 (⟨N2, N0, N1, N0, N2, N2, N0, N0, N1⟩ : Grid) P1 [M01, M10, M20, M21] rfl rfl
    (collectScores_cons v211022001 (collectScores_cons v201122001 (collectScores_cons v201022101 (collectScores_cons v201022011 collectScores_nil)))) rfl

theorem v201020201 : readBoardAux P2 6 (⟨N2, N0, N1, N0, N2, N0, N2, N0, N1⟩ : Grid) P1 = some (ZM, some M12) :=
  readBoardAux_step P2 5 (⟨N2, N0, N1, N0, N2, N0, N2, N0, N1⟩ : Grid) P1 [M01, M10, M12, M21] rfl rfl
    (collectScores_cons v211020201 (collectScores_cons v201120201 (collectScores_cons t201021201 (collectScores_cons v201020211 collectScores_nil)))) rfl

theorem v201020021 : readBoardAux P2 6 (⟨N2, N0, N1, N0, N2, N0, N0, N2, N1⟩ : Grid) P1 = some (ZM, some M12) :=
  readBoardAux_step P2 5 (⟨N2, N0, N1, N0, N2, N0, N0, N2, N1⟩ : Grid) P1 [M01, M10, M12, M20] rfl rfl
    (collectScores_cons v211020021 (collectScores_cons v201120021 (collectScores_cons t201021021 (collectScores_cons v201020121 collectScores_nil)))) rfl

theorem v201020001 : readBoardAux P2 7 (⟨N2, N0, N1, N0, N2, N0, N0, N0, N1⟩ : Grid) P2 = some (Z0, some M12) :=
  readBoardAux_step P2 6 (⟨N2, N0, N1, N0, N2, N0, N0, N0, N1⟩ : Grid) P2 [M01, M10, M12, M20, M21] rfl rfl
    (collectScores_cons v221020001 (collectScores_cons v201220001 (collectScores_cons v201022001 (collectScores_cons v201020201 (collectScores_cons v201020021 collectScores_nil))))) rfl

theorem v201020000 : readBoardAux P2 8 (⟨N2, N0, N1, N0, N2, N0, N0, N0, N0⟩ : Grid) P1 = some (Z0, some M22) :=
  readBoardAux_step P2 7 (⟨N2, N0, N1, N0, N2, N0, N0, N0, N0⟩ : Grid) P1 [M01, M10, M12, M20, M21, M22] rfl rfl
    (collectScores_cons v211020000 (collectScores_cons v201120000 (collectScores_cons v201021000 (collectScores_cons v201020100 (collectScores_cons v201020010 (collectScores_cons v201020001 collectScores_nil)))))) rfl

theorem v201112221 : readBoardAux P2 3 (⟨N2, N0, N1, N1, N1, N2, N2, N2, N1⟩ : Grid) P2 = some (Z0, some M01) :=
  readBoardAux_step P2 2 (⟨N2, N0, N1, N1, N1, N2, N2, N2, N1⟩ : Grid) P2 [M01] rfl rfl
    (collectScores_cons t221112221 collectScores_nil) rfl

theorem v201112220 : readBoardAux P2 4 (⟨N2, N0, N1, N1, N1, N2, N2, N2, N0⟩ : Grid) P1 = some (Z0, some M22) :=
  readBoardAux_step P2 3 (⟨N2, N0, N1, N1, N1, N2, N2, N2, N0⟩ : Grid) P1 [M01, M22] rfl rfl
    (collectScores_cons v211112220 (collectScores_cons v201112221 collectScores_nil)) rfl

theorem v201112212 : readBoardAux P2 3 (⟨N2, N0, N1, N1, N1, N2, N2, N1, N2⟩ : Grid) P2 = some (Z0, some M01) :=
  readBoardAux_step P2 2 (⟨N2, N0, N1, N1, N1, N2, N2, N1, N2⟩ : Grid) P2 [M01] rfl rfl
    (collectScores_cons t221112212 collectScores_nil) rfl

theorem v201112202 : readBoardAux P2 4 (⟨N2, N0, N1, N1, N1, N2, N2, N0, N2⟩ : Grid) P1 = some (Z0, some M21) :=
  readBoardAux_step P2 3 (⟨N2, N0, N1, N1, N1, N2, N2, N0, N2⟩ : Grid) P1 [M01, M21] rfl rfl
    (collectScores_cons v211112202 (collectScores_cons v201112212 collectScores_nil)) rfl

theorem v201112200 : readBoardAux P2 5 (⟨N2, N0, N1, N1, N1, N2, N2, N0, N0⟩ : Grid) P2 = some (Z0, some M01) :=
  readBoardAux_step P2 4 (⟨N2, N0, N1, N1, N1, N2, N2, N0, N0⟩ : Grid) P2 [M01, M21, M22] rfl rfl
    (collectScores_cons v221112200 (collectScores_cons v201112220 (collectScores_cons v201112202 collectScores_nil))) rfl

theorem v201102212 : readBoardAux P2 4 (⟨N2, N0, N1, N1, N0, N2, N2, N1, N2⟩ : Grid) P1 = some (Z0, some M11) :=
  readBoardAux_step P2 3 (⟨N2, N0, N1, N1, N0, N2, N2, N1, N2⟩ : Grid) P1 [M01, M11] rfl rfl
    (collectScores_cons v211102212 (collectScores_cons v201112212 collectScores_nil)) rfl

theorem v201102210 : readBoardAux P2 5 (⟨N2, N0, N1, N1, N0, N2, N2, N1, N0⟩ : Grid) P2 = some (Z0, some M01) :=
  readBoardAux_step P2 4 (⟨N2, N0, N1, N1, N0, N2, N2, N1, N0⟩ : Grid) P2 [M01, M11, M22] rfl rfl
    (collectScores_cons v221102210 (collectScores_cons v201122210 (collectScores_cons v201102212 collectScores_nil))) rfl

theorem v201102221 : readBoardAux P2 4 (⟨N2, N0, N1, N1, N0, N2, N2, N2, N1⟩ : Grid) P1 = some (Z0, some M01) :=
  readBoardAux_step P2 3 (⟨N2, N0, N1, N1, N0, N2, N2, N2, N1⟩ : Grid) P1 [M01, M11] rfl rfl
    (collectScores_cons v211102221 (collectScores_cons v201112221 collectScores_nil)) rfl

theorem v201102201 : readBoardAux P2 5 (⟨N2, N0, N1, N1, N0, N2, N2, N0, N1⟩ : Grid) P2 = some (Z0, some M01) :=
  readBoardAux_step P2 4 (⟨N2, N0, N1, N1, N0, N2, N2, N0, N1⟩ : Grid) P2 [M01, M11, M21] rfl rfl
    (collectScores_cons v221102201 (collectScores_cons v201122201 (collectScores_cons v201102221 collectScores_nil))) rfl

theorem v201102200 : readBoardAux P2 6 (⟨N2, N0, N1, N1, N0, N2, N2, N0, N0⟩ : Grid) P1 = some (Z0, some M11) :=
  readBoardAux_step P2 5 (⟨N2, N0, N1, N1, N0, N2, N2, N0, N0⟩ : Grid) P1 [M01, M11, M21, M22] rfl rfl
    (collectScores_cons v211102200 (collectScores_cons v201112200 (collectScores_cons v201102210 (collectScores_cons v201102201 collectScores_nil)))) rfl

theorem t201112122 : readBoardAux P2 3 (⟨N2, N0, N1, N1, N1, N2, N1, N2, N2⟩ : Grid) P2 = some (ZM, none) :=
  rfl

theorem v201112022 : readBoardAux P2 4 (⟨N2, N0, N1, N1, N1, N2, N0, N2, N2⟩ : Grid) P1 = some (ZM, some M20) :=
  readBoardAux_step P2 3 (⟨N2, N0, N1, N1, N1, N2, N0, N2, N2⟩ : Grid) P1 [M01, M20] rfl rfl
    (collectScores_cons v211112022 (collectScores_cons t201112122 collectScores_nil)) rfl

theorem v201112020 : readBoardAux P2 5 (⟨N2, N0, N1, N1, N1, N2, N0, N2, N0⟩ : Grid) P2 = some (Z0, some M20) :=
  readBoardAux_step P2 4 (⟨N2, N0, N1, N1, N1, N2, N0, N2, N0⟩ : Grid) P2 [M01, M20, M22] rfl rfl
    (collectScores_cons v221112020 (collectScores_cons v201112220 (collectScores_cons v201112022 collectScores_nil))) rfl

theorem v201102122 : readBoardAux P2 4 (⟨N2, N0, N1, N1, N0, N2, N1, N2, N2⟩ : Grid) P1 = some (ZM, some M11) :=
  readBoardAux_step P2 3 (⟨N2, N0, N1, N1, N0, N2, N1, N2, N2⟩ : Grid) P1 [M01, M11] rfl rfl
    (collectScores_cons v211102122 (collectScores_cons t201112122 collectScores_nil)) rfl

theorem v201102120 : readBoardAux P2 5 (⟨N2, N0, N1, N1, N0, N2, N1, N2, N0⟩ : Grid) P2 = some (ZP, some M11) :=
  readBoardAux_step P2 4 (⟨N2, N0, N1, N1, N0, N2, N1, N2, N0⟩ : Grid) P2 [M01, M11, M22] rfl rfl
    (collectScores_cons v221102120 (collectScores_cons v201122120 (collectScores_cons v201102122 collectScores_nil))) rfl

theorem v201102021 : readBoardAux P2 5 (⟨N2, N0, N1, N1, N0, N2, N0, N2, N1⟩ : Grid) P2 = some (Z0, some M01) :=
  readBoardAux_step P2 4 (⟨N2, N0, N1, N1, N0, N2, N0, N2, N1⟩ : Grid) P2 [M01, M11, M20] rfl rfl
    (collectScores_cons v221102021 (collectScores_cons v201122021 (collectScores_cons v201102221 collectScores_nil))) rfl

theorem v201102020 : readBoardAux P2 6 (⟨N2, N0, N1, N1, N0, N2, N0, N2, N0⟩ : Grid) P1 = some (Z0, some M11) :=
  readBoardAux_step P2 5 (⟨N2, N0, N1, N1, N0, N2, N0, N2, N0⟩ : Grid) P1 [M01, M11, M20, M22] rfl rfl
    (collectScores_cons v211102020 (collectScores_cons v201112020 (collectScores_cons v201102120 (collectScores_cons v201102021 collectScores_nil)))) rfl

theorem v201112002 : readBoardAux P2 5 (⟨N2, N0, N1, N1, N1, N2, N0, N0, N2⟩ : Grid) P2 = some (Z0, some M20) :=
  readBoardAux_step P2 4 (⟨N2, N0, N1, N1, N1, N2, N0, N0, N2⟩ : Grid) P2 [M01, M20, M21] rfl rfl
    (collectScores_cons v221112002 (collectScores_cons v201112202 (collectScores_cons v201112022 collectScores_nil))) rfl

theorem v201102102 : readBoardAux P2 5 (⟨N2, N0, N1, N1, N0, N2, N1, N0, N2⟩ : Grid) P2 = some (ZP, some M11) :=
  readBoardAux_step P2 4 (⟨N2, N0, N1, N1, N0, N2, N1, N0, N2⟩ : Grid) P2 [M01, M11, M21] rfl rfl
    (collectScores_cons v221102102 (collectScores_cons t201122102 (collectScores_cons v201102122 collectScores_nil))) rfl

theorem v201102012 : readBoardAux P2 5 (⟨N2, N0, N1, N1, N0, N2, N0, N1, N2⟩ : Grid) P2 = some (ZP, some M11) :=
  readBoardAux_step P2 4 (⟨N2, N0, N1, N1, N0, N2, N0, N1, N2⟩ : Grid) P2 [M01, M11, M20] rfl rfl
    (collectScores_cons v221102012 (collectScores_cons t201122012 (collectScores_cons v201102212 collectScores_nil))) rfl

theorem v201102002 : readBoardAux P2 6 (⟨N2, N0, N1, N1, N0, N2, N0, N0, N2⟩ : Grid) P1 = some (Z0, some M11) :=
  readBoardAux_step P2 5 (⟨N2, N0, N1, N1, N0, N2, N0, N0, N2⟩ : Grid) P1 [M01, M11, M20, M21] rfl rfl
    (collectScores_cons v211102002 (collectScores_cons v201112002 (collectScores_cons v201102102 (collectScores_cons v201102012 collectScores_nil)))) rfl

theorem v201102000 : readBoardAux P2 7 (⟨N2, N0, N1, N1, N0, N2, N0, N0, N0⟩ : Grid) P2 = some (Z0, some M01) :=
  readBoardAux_step P2 6 (⟨N2, N0, N1, N1, N0, N2, N0, N0, N0⟩ : Grid) P2 [M01, M11, M20, M21, M22] rfl rfl
    (collectScores_cons v221102000 (collectScores_cons v201122000 (collectScores_cons v201102200 (collectScores_cons v201102020 (collectScores_cons v201102002 collectScores_nil))))) rfl

theorem v201012212 : readBoardAux P2 4 (⟨N2, N0, N1, N0, N1, N2, N2, N1, N2⟩ : Grid) P1 = some (ZM, some M01) :=
  readBoardAux_step P2 3 (⟨N2, N0, N1, N0, N1, N2, N2, N1, N2⟩ : Grid) P1 [M01, M10] rfl rfl
    (collectScores_cons t211012212 (collectScores_cons v201112212 collectScores_nil)) rfl

theorem v201012210 : readBoardAux P2 5 (⟨N2, N0, N1, N0, N1, N2, N2, N1, N0⟩ : Grid) P2 = some (ZP, some M10) :=
  readBoardAux_step P2 4 (⟨N2, N0, N1, N0, N1, N2, N2, N1, N0⟩ : Grid) P2 [M01, M10, M22] rfl rfl
    (collectScores_cons v221012210 (collectScores_cons t201212210 (collectScores_cons v201012212 collectScores_nil))) rfl

theorem v201012221 : readBoardAux P2 4 (⟨N2, N0, N1, N0, N1, N2, N2, N2, N1⟩ : Grid) P1 = some (Z0, some M10) :=
  readBoardAux_step P2 3 (⟨N2, N0, N1, N0, N1, N2, N2, N2, N1⟩ : Grid) P1 [M01, M10] rfl rfl
    (collectScores_cons v211012221 (collectScores_cons v201112221 collectScores_nil)) rfl

theorem v201012201 : readBoardAux P2 5 (⟨N2, N0, N1, N0, N1, N2, N2, N0, N1⟩ : Grid) P2 = some (ZP, some M10) :=
  readBoardAux_step P2 4 (⟨N2, N0, N1, N0, N1, N2, N2, N0, N1⟩ : Grid) P2 [M01, M10, M21] rfl rfl
    (collectScores_cons v221012201 (collectScores_cons t201212201 (collectScores_cons v201012221 collectScores_nil))) rfl

theorem v201012200 : readBoardAux P2 6 (⟨N2, N0, N1, N0, N1, N2, N2, N0, N0⟩ : Grid) P1 = some (Z0, some M10) :=
  readBoardAux_step P2 5 (⟨N2, N0, N1, N0, N1, N2, N2, N0, N0⟩ : Grid) P1 [M01, M10, M21, M22] rfl rfl
    (collectScores_cons v211012200 (collectScores_cons v201112200 (collectScores_cons v201012210 (collectScores_cons v201012201 collectScores_nil)))) rfl

theorem t201012120 : readBoardAux P2 5 (⟨N2, N0, N1, N0, N1, N2, N1, N2, N0⟩ : Grid) P2 = some (ZM, none) :=
  rfl

theorem v201012021 : readBoardAux P2 5 (⟨N2, N0, N1, N0, N1, N2, N0, N2, N1⟩ : Grid) P2 = some (Z0, some M20) :=
  readBoardAux_step P2 4 (⟨N2, N0, N1, N0, N1, N2, N0, N2, N1⟩ : Grid) P2 [M01, M10, M20] rfl rfl
    (collectScores_cons v221012021 (collectScores_cons v201212021 (collectScores_cons v201012221 collectScores_nil))) rfl

theorem v201012020 : readBoardAux P2 6 (⟨N2, N0, N1, N0, N1, N2, N0, N2, N0⟩ : Grid) P1 = some (ZM, some M20) :=
  readBoardAux_step P2 5 (⟨N2, N0, N1, N0, N1, N2, N0, N2, N0⟩ : Grid) P1 [M01, M10, M20, M22] rfl rfl
    (collectScores_cons v211012020 (collectScores_cons v201112020 (collectScores_cons t201012120 (collectScores_cons v201012021 collectScores_nil)))) rfl

theorem t201012102 : readBoardAux P2 5 (⟨N2, N0, N1, N0, N1, N2, N1, N0, N2⟩ : Grid) P2 = some (ZM, none) :=
  rfl

theorem v201012012 : readBoardAux P2 5 (⟨N2, N0, N1, N0, N1, N2, N0, N1, N2⟩ : Grid) P2 = some (ZM, some M01) :=
  readBoardAux_step P2 4 (⟨N2, N0, N1, N0, N1, N2, N0, N1, N2⟩ : Grid) P2 [M01, M10, M20] rfl rfl
    (collectScores_cons v221012012 (collectScores_cons v201212012 (collectScores_cons v201012212 collectScores_nil))) rfl

theorem v201012002 : readBoardAux P2 6 (⟨N2, N0, N1, N0, N1, N2, N0, N0, N2⟩ : Grid) P1 = some (ZM, some M01) :=
  readBoardAux_step P2 5 (⟨N2, N0, N1, N0, N1, N2, N0, N0, N2⟩ : Grid) P1 [M01, M10, M20, M21] rfl rfl
    (collectScores_cons v211012002 (collectScores_cons v201112002 (collectScores_cons t201012102 (collectScores_cons v201012012 collectScores_nil)))) rfl

theorem v201012000 : readBoardAux P2 7 (⟨N2, N0, N1, N0, N1, N2, N0, N0, N0⟩ : Grid) P2 = some (Z0, some M20) :=
  readBoardAux_step P2 6 (⟨N2, N0, N1, N0, N1, N2, N0, N0, N0⟩ : Grid) P2 [M01, M10, M20, M21, M22] rfl rfl
    (collectScores_cons v221012000 (collectScores_cons v201212000 (collectScores_cons v201012200 (collectScores_cons v201012020 (collectScores_cons v201012002 collectScores_nil))))) rfl

theorem v201002121 : readBoardAux P2 5 (⟨N2, N0, N1, N0, N0, N2, N1, N2, N1⟩ : Grid) P2 = some (ZP, some M11) :=
  readBoardAux_step P2 4 (⟨N2, N0, N1, N0, N0, N2, N1, N2, N1⟩ : Grid) P2 [M01, M10, M11] rfl rfl
    (collectScores_cons v221002121 (collectScores_cons v201202121 (collectScores_cons v201022121 collectScores_nil))) rfl

theorem v201002120 : readBoardAux P2 6 (⟨N2, N0, N1, N0, N0, N2, N1, N2, N0⟩ : Grid) P1 = some (ZM, some M11) :=
  readBoardAux_step P2 5 (⟨N2, N0, N1, N0, N0, N2, N1, N2, N0⟩ : Grid) P1 [M01, M10, M11, M22] rfl rfl
    (collectScores_cons v211002120 (collectScores_cons v201102120 (collectScores_cons t201012120 (collectScores_cons v201002121 collectScores_nil)))) rfl

theorem v201002112 : readBoardAux P2 5 (⟨N2, N0, N1, N0, N0, N2, N1, N1, N2⟩ : Grid) P2 = some (ZP, some M11) :=
  readBoardAux_step P2 4 (⟨N2, N0, N1, N0, N0, N2, N1, N1, N2⟩ : Grid) P2 [M01, M10, M11] rfl rfl
    (collectScores_cons v221002112 (collectScores_cons v201202112 (collectScores_cons t201022112 collectScores_nil))) rfl

theorem v201002102 : readBoardAux P2 6 (⟨N2, N0, N1, N0, N0, N2, N1, N0, N2⟩ : Grid) P1 = some (ZM, some M11) :=
  readBoardAux_step P2 5 (⟨N2, N0, N1, N0, N0, N2, N1, N0, N2⟩ : Grid) P1 [M01, M10, M11, M21] rfl rfl
    (collectScores_cons v211002102 (collectScores_cons v201102102 (collectScores_cons t201012102 (collectScores_cons v201002112 collectScores_nil)))) rfl

theorem v201002100 : readBoardAux P2 7 (⟨N2, N0, N1, N0, N0, N2, N1, N0, N0⟩ : Grid) P2 = some (ZP, some M11) :=
  readBoardAux_step P2 6 (⟨N2, N0, N1, N0, N0, N2, N1, N0, N0⟩ : Grid) P2 [M01, M10, M11, M21, M22] rfl rfl
    (collectScores_cons v221002100 (collectScores_cons v201202100 (collectScores_cons v201022100 (collectScores_cons v201002120 (collectScores_cons v201002102 collectScores_nil))))) rfl

theorem v201002211 : readBoardAux P2 5 (⟨N2, N0, N1, N0, N0, N2, N2, N1, N1⟩ : Grid) P2 = some (ZP, some M10) :=
  readBoardAux_step P2 4 (⟨N2, N0, N1, N0, N0, N2, N2, N1, N1⟩ : Grid) P2 [M01, M10, M11] rfl rfl
    (collectScores_cons v221002211 (collectScores_cons t201202211 (collectScores_cons v201022211 collectScores_nil))) rfl

theorem v201002210 : readBoardAux P2 6 (⟨N2, N0, N1, N0, N0, N2, N2, N1, N0⟩ : Grid) P1 = some (Z0, some M10) :=
  readBoardAux_step P2 5 (⟨N2, N0, N1, N0, N0, N2, N2, N1, N0⟩ : Grid) P1 [M01, M10, M11, M22] rfl rfl
    (collectScores_cons v211002210 (collectScores_cons v201102210 (collectScores_cons v201012210 (collectScores_cons v201002211 collectScores_nil)))) rfl

theorem v201002012 : readBoardAux P2 6 (⟨N2, N0, N1, N0, N0, N2, N0, N1, N2⟩ : Grid) P1 = some (ZM, some M11) :=
  readBoardAux_step P2 5 (⟨N2, N0, N1, N0, N0, N2, N0, N1, N2⟩ : Grid) P1 [M01, M10, M11, M20] rfl rfl
    (collectScores_cons v211002012 (collectScores_cons v201102012 (collectScores_cons v201012012 (collectScores_cons v201002112 collectScores_nil)))) rfl

theorem v201002010 : readBoardAux P2 7 (⟨N2, N0, N1, N0, N0, N2, N0, N1, N0⟩ : Grid) P2 = some (ZP, some M10) :=
  readBoardAux_step P2 6 (⟨N2, N0, N1, N0, N0, N2, N0, N1, N0⟩ : Grid) P2 [M01, M10, M11, M20, M22] rfl rfl
    (collectScores_cons v221002010 (collectScores_cons v201202010 (collectScores_cons v201022010 (collectScores_cons v201002210 (collectScores_cons v201002012 collectScores_nil))))) rfl

theorem v201002201 : readBoardAux P2 6 (⟨N2, N0, N1, N0, N0, N2, N2, N0, N1⟩ : Grid) P1 = some (Z0, some M10) :=
  readBoardAux_step P2 5 (⟨N2, N0, N1, N0, N0, N2, N2, N0, N1⟩ : Grid) P1 [M01, M10, M11, M21] rfl rfl
    (collectScores_cons v211002201 (collectScores_cons v201102201 (collectScores_cons v201012201 (collectScores_cons v201002211 collectScores_nil)))) rfl

theorem v201002021 : readBoardAux P2 6 (⟨N2, N0, N1, N0, N0, N2, N0, N2, N1⟩ : Grid) P1 = some (Z0, some M10) :=
  readBoardAux_step P2 5 (⟨N2, N0, N1, N0, N0, N2, N0, N2, N1⟩ : Grid) P1 [M01, M10, M11, M20] rfl rfl
    (collectScores_cons v211002021 (collectScores_cons v201102021 (collectScores_cons v201012021 (collectScores_cons v201002121 collectScores_nil)))) rfl

theorem v201002001 : readBoardAux P2 7 (⟨N2, N0, N1, N0, N0, N2, N0, N0, N1⟩ : Grid) P2 = some (ZP, some M10) :=
  readBoardAux_step P2 6 (⟨N2, N0, N1, N0, N0, N2, N0, N0, N1⟩ : Grid) P2 [M01, M10, M11, M20, M21] rfl rfl
    (collectScores_cons v221002001 (collectScores_cons v201202001 (collectScores_cons v201022001 (collectScores_cons v201002201 (collectScores_cons v201002021 collectScores_nil))))) rfl

theorem v201002000 : readBoardAux P2 8 (⟨N2, N0, N1, N0, N0, N2, N0, N0, N0⟩ : Grid) P1 = some (Z0, some M10) :=
  readBoardAux_step P2 7 (⟨N2, N0, N1, N0, N0, N2, N0, N0, N0⟩ : Grid) P1 [M01, M10, M11, M20, M21, M22] rfl rfl
    (collectScores_cons v211002000 (collectScores_cons v201102000 (collectScores_cons v201012000 (collectScores_cons v201002100 (collectScores_cons v201002010 (collectScores_cons v201002001 collectScores_nil)))))) rfl

theorem t201110222 : readBoardAux P2 4 (⟨N2, N0, N1, N1, N1, N0, N2, N2, N2⟩ : Grid) P1 = some (ZP, none) :=
  rfl

theorem v201110220 : readBoardAux P2 5 (⟨N2, N0, N1, N1, N1, N0, N2, N2, N0⟩ : Grid) P2 = some (ZP, some M22) :=
  readBoardAux_step P2 4 (⟨N2, N0, N1, N1, N1, N0, N2, N2, N0⟩ : Grid) P2 [M01, M12, M22] rfl rfl
    (collectScores_cons v221110220 (collectScores_cons v201112220 (collectScores_cons t201110222 collectScores_nil))) rfl

theorem t201101222 : readBoardAux P2 4 (⟨N2, N0, N1, N1, N0, N1, N2, N2, N2⟩ : Grid) P1 = some (ZP, none) :=
  rfl

theorem v201101220 : readBoardAux P2 5 (⟨N2, N0, N1, N1, N0, N1, N2, N2, N0⟩ : Grid) P2 = some (ZP, some M22) :=
  readBoardAux_step P2 4 (⟨N2, N0, N1, N1, N0, N1, N2, N2, N0⟩ : Grid) P2 [M01, M11, M22] rfl rfl
    (collectScores_cons v221101220 (collectScores_cons v201121220 (collectScores_cons t201101222 collectScores_nil))) rfl

theorem v201100221 : readBoardAux P2 5 (⟨N2, N0, N1, N1, N0, N0, N2, N2, N1⟩ : Grid) P2 = some (Z0, some M12) :=
  readBoardAux_step P2 4 (⟨N2, N0, N1, N1, N0, N0, N2, N2, N1⟩ : Grid) P2 [M01, M11, M12] rfl rfl
    (collectScores_cons v221100221 (collectScores_cons v201120221 (collectScores_cons v201102221 collectScores_nil))) rfl

theorem v201100220 : readBoardAux P2 6 (⟨N2, N0, N1, N1, N0, N0, N2, N2, N0⟩ : Grid) P1 = some (Z0, some M22) :=
  readBoardAux_step P2 5 (⟨N2, N0, N1, N1, N0, N0, N2, N2, N0⟩ : Grid) P1 [M01, M11, M12, M22] rfl rfl
    (collectScores_cons v211100220 (collectScores_cons v201110220 (collectScores_cons v201101220 (collectScores_cons v201100221 collectScores_nil)))) rfl

theorem v201110202 : readBoardAux P2 5 (⟨N2, N0, N1, N1, N1, N0, N2, N0, N2⟩ : Grid) P2 = some (ZP, some M21) :=
  readBoardAux_step P2 4 (⟨N2, N0, N1, N1, N1, N0, N2, N0, N2⟩ : Grid) P2 [M01, M12, M21] rfl rfl
    (collectScores_cons v221110202 (collectScores_cons v201112202 (collectScores_cons t201110222 collectScores_nil))) rfl

theorem v201101202 : readBoardAux P2 5 (⟨N2, N0, N1, N1, N0, N1, N2, N0, N2⟩ : Grid) P2 = some (ZP, some M11) :=
  readBoardAux_step P2 4 (⟨N2, N0, N1, N1, N0, N1, N2, N0, N2⟩ : Grid) P2 [M01, M11, M21] rfl rfl
    (collectScores_cons v221101202 (collectScores_cons t201121202 (collectScores_cons t201101222 collectScores_nil))) rfl

theorem v201100212 : readBoardAux P2 5 (⟨N2, N0, N1, N1, N0, N0, N2, N1, N2⟩ : Grid) P2 = some (ZP, some M11) :=
  readBoardAux_step P2 4 (⟨N2, N0, N1, N1, N0, N0, N2, N1, N2⟩ : Grid) P2 [M01, M11, M12] rfl rfl
    (collectScores_cons v221100212 (collectScores_cons t201120212 (collectScores_cons v201102212 collectScores_nil))) rfl

theorem v201100202 : readBoardAux P2 6 (⟨N2, N0, N1, N1, N0, N0, N2, N0, N2⟩ : Grid) P1 = some (ZP, some M01) :=
  readBoardAux_step P2 5 (⟨N2, N0, N1, N1, N0, N0, N2, N0, N2⟩ : Grid) P1 [M01, M11, M12, M21] rfl rfl
    (collectScores_cons v211100202 (collectScores_cons v201110202 (collectScores_cons v201101202 (collectScores_cons v201100212 collectScores_nil)))) rfl

theorem v201100200 : readBoardAux P2 7 (⟨N2, N0, N1, N1, N0, N0, N2, N0, N0⟩ : Grid) P2 = some (ZP, some M22) :=
  readBoardAux_step P2 6 (⟨N2, N0, N1, N1, N0, N0, N2, N0, N0⟩ : Grid) P2 [M01, M11, M12, M21, M22] rfl rfl
    (collectScores_cons v221100200 (collectScores_cons v201120200 (collectScores_cons v201102200 (collectScores_cons v201100220 (collectScores_cons v201100202 collectScores_nil))))) rfl

theorem t201011222 : readBoardAux P2 4 (⟨N2, N0, N1, N0, N1, N1, N2, N2, N2⟩ : Grid) P1 = some (ZP, none) :=
  rfl

theorem v201011220 : readBoardAux P2 5 (⟨N2, N0, N1, N0, N1, N1, N2, N2, N0⟩ : Grid) P2 = some (ZP, some M10) :=
  readBoardAux_step P2 4 (⟨N2, N0, N1, N0, N1, N1, N2, N2, N0⟩ : Grid) P2 [M01, M10, M22] rfl rfl
    (collectScores_cons v221011220 (collectScores_cons t201211220 (collectScores_cons t201011222 collectScores_nil))) rfl

theorem v201010221 : readBoardAux P2 5 (⟨N2, N0, N1, N0, N1, N0, N2, N2, N1⟩ : Grid) P2 = some (ZP, some M10) :=
  readBoardAux_step P2 4 (⟨N2, N0, N1, N0, N1, N0, N2, N2, N1⟩ : Grid) P2 [M01, M10, M12] rfl rfl
    (collectScores_cons v221010221 (collectScores_cons t201210221 (collectScores_cons v201012221 collectScores_nil))) rfl

theorem v201010220 : readBoardAux P2 6 (⟨N2, N0, N1, N0, N1, N0, N2, N2, N0⟩ : Grid) P1 = some (ZP, some M01) :=
  readBoardAux_step P2 5 (⟨N2, N0, N1, N0, N1, N0, N2, N2, N0⟩ : Grid) P1 [M01, M10, M12, M22] rfl rfl
    (collectScores_cons v211010220 (collectScores_cons v201110220 (collectScores_cons v201011220 (collectScores_cons v201010221 collectScores_nil)))) rfl

theorem v201011202 : readBoardAux P2 5 (⟨N2, N0, N1, N0, N1, N1, N2, N0, N2⟩ : Grid) P2 = some (ZP, some M10) :=
  readBoardAux_step P2 4 (⟨N2, N0, N1, N0, N1, N1, N2, N0, N2⟩ : Grid) P2 [M01, M10, M21] rfl rfl
    (collectScores_cons v221011202 (collectScores_cons t201211202 (collectScores_cons t201011222 collectScores_nil))) rfl

theorem v201010212 : readBoardAux P2 5 (⟨N2, N0, N1, N0, N1, N0, N2, N1, N2⟩ : Grid) P2 = some (ZP, some M10) :=
  readBoardAux_step P2 4 (⟨N2, N0, N1, N0, N1, N0, N2, N1, N2⟩ : Grid) P2 [M01, M10, M12] rfl rfl
    (collectScores_cons v221010212 (collectScores_cons t201210212 (collectScores_cons v201012212 collectScores_nil))) rfl

theorem v201010202 : readBoardAux P2 6 (⟨N2, N0, N1, N0, N1, N0, N2, N0, N2⟩ : Grid) P1 = some (ZP, some M01) :=
  readBoardAux_step P2 5 (⟨N2, N0, N1, N0, N1, N0, N2, N0, N2⟩ : Grid) P1 [M01, M10, M12, M21] rfl rfl
    (collectScores_cons v211010202 (collectScores_cons v201110202 (collectScores_cons v201011202 (collectScores_cons v201010212 collectScores_nil)))) rfl

theorem v201010200 : readBoardAux P2 7 (⟨N2, N0, N1, N0, N1, N0, N2, N0, N0⟩ : Grid) P2 = some (ZP, some M10) :=
  readBoardAux_step P2 6 (⟨N2, N0, N1, N0, N1, N0, N2, N0, N0⟩ : Grid) P2 [M01, M10, M12, M21, M22] rfl rfl
    (collectScores_cons v221010200 (collectScores_cons t201210200 (collectScores_cons v201012200 (collectScores_cons v201010220 (collectScores_cons v201010202 collectScores_nil))))) rfl

theorem t201001221 : readBoardAux P2 5 (⟨N2, N0, N1, N0, N0, N1, N2, N2, N1⟩ : Grid) P2 = some (ZM, none) :=
  rfl

theorem v201001220 : readBoardAux P2 6 (⟨N2, N0, N1, N0, N0, N1, N2, N2, N0⟩ : Grid) P1 = some (ZM, some M22) :=
  readBoardAux_step P2 5 (⟨N2, N0, N1, N0, N0, N1, N2, N2, N0⟩ : Grid) P1 [M01, M10, M11, M22] rfl rfl
    (collectScores_cons v211001220 (collectScores_cons v201101220 (collectScores_cons v201011220 (collectScores_cons t201001221 collectScores_nil)))) rfl

theorem v201001212 : readBoardAux P2 5 (⟨N2, N0, N1, N0, N0, N1, N2, N1, N2⟩ : Grid) P2 = some (ZP, some M01) :=
  readBoardAux_step P2 4 (⟨N2, N0, N1, N0, N0, N1, N2, N1, N2⟩ : Grid) P2 [M01, M10, M11] rfl rfl
    (collectScores_cons v221001212 (collectScores_cons t201201212 (collectScores_cons t201021212 collectScores_nil))) rfl

theorem v201001202 : readBoardAux P2 6 (⟨N2, N0, N1, N0, N0, N1, N2, N0, N2⟩ : Grid) P1 = some (ZP, some M01) :=
  readBoardAux_step P2 5 (⟨N2, N0, N1, N0, N0, N1, N2, N0, N2⟩ : Grid) P1 [M01, M10, M11, M21] rfl rfl
    (collectScores_cons v211001202 (collectScores_cons v201101202 (collectScores_cons v201011202 (collectScores_cons v201001212 collectScores_nil)))) rfl

theorem v201001200 : readBoardAux P2 7 (⟨N2, N0, N1, N0, N0, N1, N2, N0, N0⟩ : Grid) P2 = some (ZP, some M10) :=
  readBoardAux_step P2 6 (⟨N2, N0, N1, N0, N0, N1, N2, N0, N0⟩ : Grid) P2 [M01, M10, M11, M21, M22] rfl rfl
    (collectScores_cons v221001200 (collectScores_cons t201201200 (collectScores_cons v201021200 (collectScores_cons v201001220 (collectScores_cons v201001202 collectScores_nil))))) rfl

theorem v201000212 : readBoardAux P2 6 (⟨N2, N0, N1, N0, N0, N0, N2, N1, N2⟩ : Grid) P1 = some (ZP, some M01) :=
  readBoardAux_step P2 5 (⟨N2, N0, N1, N0, N0, N0, N2, N1, N2⟩ : Grid) P1 [M01, M10, M11, M12] rfl rfl
    (collectScores_cons v211000212 (collectScores_cons v201100212 (collectScores_cons v201010212 (collectScores_cons v201001212 collectScores_nil)))) rfl

theorem v201000210 : readBoardAux P2 7 (⟨N2, N0, N1, N0, N0, N0, N2, N1, N0⟩ : Grid) P2 = some (ZP, some M10) :=
  readBoardAux_step P2 6 (⟨N2, N0, N1, N0, N0, N0, N2, N1, N0⟩ : Grid) P2 [M01, M10, M11, M12, M22] rfl rfl
    (collectScores_cons v221000210 (collectScores_cons t201200210 (collectScores_cons v201020210 (collectScores_cons v201002210 (collectScores_cons v201000212 collectScores_nil))))) rfl

theorem v201000221 : readBoardAux P2 6 (⟨N2, N0, N1, N0, N0, N0, N2, N2, N1⟩ : Grid) P1 = some (ZM, some M12) :=
  readBoardAux_step P2 5 (⟨N2, N0, N1, N0, N0, N0, N2, N2, N1⟩ : Grid) P1 [M01, M10, M11, M12] rfl rfl
    (collectScores_cons v211000221 (collectScores_cons v201100221 (collectScores_cons v201010221 (collectScores_cons t201001221 collectScores_nil)))) rfl

theorem v201000201 : readBoardAux P2 7 (⟨N2, N0, N1, N0, N0, N0, N2, N0, N1⟩ : Grid) P2 = some (ZP, some M10) :=
  readBoardAux_step P2 6 (⟨N2, N0, N1, N0, N0, N0, N2, N0, N1⟩ : Grid) P2 [M01, M10, M11, M12, M21] rfl rfl
    (collectScores_cons v221000201 (collectScores_cons t201200201 (collectScores_cons v201020201 (collectScores_cons v201002201 (collectScores_cons v201000221 collectScores_nil))))) rfl

theorem v201000200 : readBoardAux P2 8 (⟨N2, N0, N1, N0, N0, N0, N2, N0, N0⟩ : Grid) P1 = some (ZP, some M01) :=
  readBoardAux_step P2 7 (⟨N2, N0, N1, N0, N0, N0, N2, N0, N0⟩ : Grid) P1 [M01, M10, M11, M12, M21, M22] rfl rfl
    (collectScores_cons v211000200 (collectScores_cons v201100200 (collectScores_cons v201010200 (collectScores_cons v201001200 (collectScores_cons v201000210 (collectScores_cons v201000201 collectScores_nil)))))) rfl

theorem v201110022 : readBoardAux P2 5 (⟨N2, N0, N1, N1, N1, N0, N0, N2, N2⟩ : Grid) P2 = some (ZP, some M20) :=
  readBoardAux_step P2 4 (⟨N2, N0, N1, N1, N1, N0, N0, N2, N2⟩ : Grid) P2 [M01, M12, M20] rfl rfl
    (collectScores_cons v221110022 (collectScores_cons v201112022 (collectScores_cons t201110222 collectScores_nil))) rfl

theorem v201101022 : readBoardAux P2 5 (⟨N2, N0, N1, N1, N0, N1, N0, N2, N2⟩ : Grid) P2 = some (ZP, some M11) :=
  readBoardAux_step P2 4 (⟨N2, N0, N1, N1, N0, N1, N0, N2, N2⟩ : Grid) P2 [M01, M11, M20] rfl rfl
    (collectScores_cons v221101022 (collectScores_cons t201121022 (collectScores_cons t201101222 collectScores_nil))) rfl

theorem v201100122 : readBoardAux P2 5 (⟨N2, N0, N1, N1, N0, N0, N1, N2, N2⟩ : Grid) P2 = some (ZP, some M11) :=
  readBoardAux_step P2 4 (⟨N2, N0, N1, N1, N0, N0, N1, N2, N2⟩ : Grid) P2 [M01, M11, M12] rfl rfl
    (collectScores_cons v221100122 (collectScores_cons t201120122 (collectScores_cons v201102122 collectScores_nil))) rfl

theorem v201100022 : readBoardAux P2 6 (⟨N2, N0, N1, N1, N0, N0, N0, N2, N2⟩ : Grid) P1 = some (ZP, some M01) :=
  readBoardAux_step P2 5 (⟨N2, N0, N1, N1, N0, N0, N0, N2, N2⟩ : Grid) P1 [M01, M11, M12, M20] rfl rfl
    (collectScores_cons v211100022 (collectScores_cons v201110022 (collectScores_cons v201101022 (collectScores_cons v201100122 collectScores_nil)))) rfl

theorem v201100020 : readBoardAux P2 7 (⟨N2, N0, N1, N1, N0, N0, N0, N2, N0⟩ : Grid) P2 = some (ZP, some M11) :=
  readBoardAux_step P2 6 (⟨N2, N0, N1, N1, N0, N0, N0, N2, N0⟩ : Grid) P2 [M01, M11, M12, M20, M22] rfl rfl
    (collectScores_cons v221100020 (collectScores_cons v201120020 (collectScores_cons v201102020 (collectScores_cons v201100220 (collectScores_cons v201100022 collectScores_nil))))) rfl

theorem v201011022 : readBoardAux P2 5 (⟨N2, N0, N1, N0, N1, N1, N0, N2, N2⟩ : Grid) P2 = some (ZP, some M20) :=
  readBoardAux_step P2 4 (⟨N2, N0, N1, N0, N1, N1, N0, N2, N2⟩ : Grid) P2 [M01, M10, M20] rfl rfl
    (collectScores_cons v221011022 (collectScores_cons v201211022 (collectScores_cons t201011222 collectScores_nil))) rfl

theorem t201010122 : readBoardAux P2 5 (⟨N2, N0, N1, N0, N1, N0, N1, N2, N2⟩ : Grid) P2 = some (ZM, none) :=
  rfl

theorem v201010022 : readBoardAux P2 6 (⟨N2, N0, N1, N0, N1, N0, N0, N2, N2⟩ : Grid) P1 = some (ZM, some M20) :=
  readBoardAux_step P2 5 (⟨N2, N0, N1, N0, N1, N0, N0, N2, N2⟩ : Grid) P1 [M01, M10, M12, M20] rfl rfl
    (collectScores_cons v211010022 (collectScores_cons v201110022 (collectScores_cons v201011022 (collectScores_cons t201010122 collectScores_nil)))) rfl

theorem v201010020 : readBoardAux P2 7 (⟨N2, N0, N1, N0, N1, N0, N0, N2, N0⟩ : Grid) P2 = some (ZP, some M20) :=
  readBoardAux_step P2 6 (⟨N2, N0, N1, N0, N1, N0, N0, N2, N0⟩ : Grid) P2 [M01, M10, M12, M20, M22] rfl rfl
    (collectScores_cons v221010020 (collectScores_cons v201210020 (collectScores_cons v201012020 (collectScores_cons v201010220 (collectScores_cons v201010022 collectScores_nil))))) rfl

theorem v201001122 : readBoardAux P2 5 (⟨N2, N0, N1, N0, N0, N1, N1, N2, N2⟩ : Grid) P2 = some (ZP, some M11) :=
  readBoardAux_step P2 4 (⟨N2, N0, N1, N0, N0, N1, N1, N2, N2⟩ : Grid) P2 [M01, M10, M11] rfl rfl
    (collectScores_cons v221001122 (collectScores_cons v201201122 (collectScores_cons t201021122 collectScores_nil))) rfl

theorem v201001022 : readBoardAux P2 6 (⟨N2, N0, N1, N0, N0, N1, N0, N2, N2⟩ : Grid) P1 = some (ZP, some M01) :=
  readBoardAux_step P2 5 (⟨N2, N0, N1, N0, N0, N1, N0, N2, N2⟩ : Grid) P1 [M01, M10, M11, M20] rfl rfl
    (collectScores_cons v211001022 (collectScores_cons v201101022 (collectScores_cons v201011022 (collectScores_cons v201001122 collectScores_nil)))) rfl

theorem v201001020 : readBoardAux P2 7 (⟨N2, N0, N1, N0, N0, N1, N0, N2, N0⟩ : Grid) P2 = some (ZP, some M22) :=
  readBoardAux_step P2 6 (⟨N2, N0, N1, N0, N0, N1, N0, N2, N0⟩ : Grid) P2 [M01, M10, M11, M20, M22] rfl rfl
    (collectScores_cons v221001020 (collectScores_cons v201201020 (collectScores_cons v201021020 (collectScores_cons v201001220 (collectScores_cons v201001022 collectScores_nil))))) rfl

theorem v201000122 : readBoardAux P2 6 (⟨N2, N0, N1, N0, N0, N0, N1, N2, N2⟩ : Grid) P1 = some (ZM, some M11) :=
  readBoardAux_step P2 5 (⟨N2, N0, N1, N0, N0, N0, N1, N2, N2⟩ : Grid) P1 [M01, M10, M11, M12] rfl rfl
    (collectScores_cons v211000122 (collectScores_cons v201100122 (collectScores_cons t201010122 (collectScores_cons v201001122 collectScores_nil)))) rfl

theorem v201000120 : readBoardAux P2 7 (⟨N2, N0, N1, N0, N0, N0, N1, N2, N0⟩ : Grid) P2 = some (ZP, some M11) :=
  readBoardAux_step P2 6 (⟨N2, N0, N1, N0, N0, N0, N1, N2, N0⟩ : Grid) P2 [M01, M10, M11, M12, M22] rfl rfl
    (collectScores_cons v221000120 (collectScores_cons v201200120 (collectScores_cons v201020120 (collectScores_cons v201002120 (collectScores_cons v201000122 collectScores_nil))))) rfl

theorem v201000021 : readBoardAux P2 7 (⟨N2, N0, N1, N0, N0, N0, N0, N2, N1⟩ : Grid) P2 = some (Z0, some M12) :=
  readBoardAux_step P2 6 (⟨N2, N0, N1, N0, N0, N0, N0, N2, N1⟩ : Grid) P2 [M01, M10, M11, M12, M20] rfl rfl
    (collectScores_cons v221000021 (collectScores_cons v201200021 (collectScores_cons v201020021 (collectScores_cons v201002021 (collectScores_cons v201000221 collectScores_nil))))) rfl

theorem v201000020 : readBoardAux P2 8 (⟨N2, N0, N1, N0, N0, N0, N0, N2, N0⟩ : Grid) P1 = some (Z0, some M22) :=
  readBoardAux_step P2 7 (⟨N2, N0, N1, N0, N0, N0, N0, N2, N0⟩ : Grid) P1 [M01, M10, M11, M12, M20, M22] rfl rfl
    (collectScores_cons v211000020 (collectScores_cons v201100020 (collectScores_cons v201010020 (collectScores_cons v201001020 (collectScores_cons v201000120 (collectScores_cons v201000021 collectScores_nil)))))) rfl

theorem v201100002 : readBoardAux P2 7 (⟨N2, N0, N1, N1, N0, N0, N0, N0, N2⟩ : Grid) P2 = some (ZP, some M11) :=
  readBoardAux_step P2 6 (⟨N2, N0, N1, N1, N0, N0, N0, N0, N2⟩ : Grid) P2 [M01, M11, M12, M20, M21] rfl rfl
    (collectScores_cons v221100002 (collectScores_cons t201120002 (collectScores_cons v201102002 (collectScores_cons v201100202 (collectScores_cons v201100022 collectScores_nil))))) rfl

theorem v201010002 : readBoardAux P2 7 (⟨N2, N0, N1, N0, N1, N0, N0, N0, N2⟩ : Grid) P2 = some (ZP, some M20) :=
  readBoardAux_step P2 6 (⟨N2, N0, N1, N0, N1, N0, N0, N0, N2⟩ : Grid) P2 [M01, M10, M12, M20, M21] rfl rfl
    (collectScores_cons v221010002 (collectScores_cons v201210002 (collectScores_cons v201012002 (collectScores_cons v201010202 (collectScores_cons v201010022 collectScores_nil))))) rfl

theorem v201001002 : readBoardAux P2 7 (⟨N2, N0, N1, N0, N0, N1, N0, N0, N2⟩ : Grid) P2 = some (ZP, some M10) :=
  readBoardAux_step P2 6 (⟨N2, N0, N1, N0, N0, N1, N0, N0, N2⟩ : Grid) P2 [M01, M10, M11, M20, M21] rfl rfl
    (collectScores_cons v221001002 (collectScores_cons v201201002 (collectScores_cons t201021002 (collectScores_cons v201001202 (collectScores_cons v201001022 collectScores_nil))))) rfl

theorem v201000102 : readBoardAux P2 7 (⟨N2, N0, N1, N0, N0, N0, N1, N0, N2⟩ : Grid) P2 = some (ZP, some M11) :=
  readBoardAux_step P2 6 (⟨N2, N0, N1, N0, N0, N0, N1, N0, N2⟩ : Grid) P2 [M01, M10, M11, M12, M21] rfl rfl
    (collectScores_cons v221000102 (collectScores_cons v201200102 (collectScores_cons t201020102 (collectScores_cons v201002102 (collectScores_cons v201000122 collectScores_nil))))) rfl

theorem v201000012 : readBoardAux P2 7 (⟨N2, N0, N1, N0, N0, N0, N0, N1, N2⟩ : Grid) P2 = some (ZP, some M10) :=
  readBoardAux_step P2 6 (⟨N2, N0, N1, N0, N0, N0, N0, N1, N2⟩ : Grid) P2 [M01, M10, M11, M12, M20] rfl rfl
    (collectScores_cons v221000012 (collectScores_cons v201200012 (collectScores_cons t201020012 (collectScores_cons v201002012 (collectScores_cons v201000212 collectScores_nil))))) rfl

theorem v201000002 : readBoardAux P2 8 (⟨N2, N0, N1, N0, N0, N0, N0, N0, N2⟩ : Grid) P1 = some (ZP, some M01) :=
  readBoardAux_step P2 7 (⟨N2, N0, N1, N0, N0, N0, N0, N0, N2⟩ : Grid) P1 [M01, M10, M11, M12, M20, M21] rfl rfl
    (collectScores_cons v211000002 (collectScores_cons v201100002 (collectScores_cons v201010002 (collectScores_cons v201001002 (collectScores_cons v201000102 (collectScores_cons v201000012 collectScores_nil)))))) rfl

theorem v201000000 : readBoardAux P2 9 (⟨N2, N0, N1, N0, N0, N0, N0, N0, N0⟩ : Grid) P2 = some (ZP, some M10) :=
  readBoardAux_step P2 8 (⟨N2, N0, N1, N0, N0, N0, N0, N0, N0⟩ : Grid) P2 [M01, M10, M11, M12, M20, M21, M22] rfl rfl
    (collectScores_cons v221000000 (collectScores_cons v201200000 (collectScores_cons v201020000 (collectScores_cons v201002000 (collectScores_cons v201000200 (collectScores_cons v201000020 (collectScores_cons v201000002 collectScores_nil))))))) rfl

theorem t222110000 : readBoardAux P2 6 (⟨N2, N2, N2, N1, N1, N0, N0, N0, N0⟩ : Grid) P1 = some (ZP, none) :=
  rfl

theorem t222112100 : readBoardAux P2 4 (⟨N2, N2, N2, N1, N1, N2, N1, N0, N0⟩ : Grid) P1 = some (ZP, none) :=
  rfl

theorem t222112121 : readBoardAux P2 2 (⟨N2, N2, N2, N1, N1, N2, N1, N2, N1⟩ : Grid) P1 = some (ZP, none) :=
  rfl

theorem v220112121 : readBoardAux P2 3 (⟨N2, N2, N0, N1, N1, N2, N1, N2, N1⟩ : Grid) P2 = some (ZP, some M02) :=
  readBoardAux_step P2 2 (⟨N2, N2, N0, N1, N1, N2, N1, N2, N1⟩ : Grid) P2 [M02] rfl rfl
    (collectScores_cons t222112121 collectScores_nil) rfl

theorem v220112120 : readBoardAux P2 4 (⟨N2, N2, N0, N1, N1, N2, N1, N2, N0⟩ : Grid) P1 = some (ZM, some M02) :=
  readBoardAux_step P2 3 (⟨N2, N2, N0, N1, N1, N2, N1, N2, N0⟩ : Grid) P1 [M02, M22] rfl rfl
    (collectScores_cons t221112120 (collectScores_cons v220112121 collectScores_nil)) rfl

theorem t222112112 : readBoardAux P2 2 (⟨N2, N2, N2, N1, N1, N2, N1, N1, N2⟩ : Grid) P1 = some (ZP, none) :=
  rfl

theorem v220112112 : readBoardAux P2 3 (⟨N2, N2, N0, N1, N1, N2, N1, N1, N2⟩ : Grid) P2 = some (ZP, some M02) :=
  readBoardAux_step P2 2 (⟨N2, N2, N0, N1, N1, N2, N1, N1, N2⟩ : Grid) P2 [M02] rfl rfl
    (collectScores_cons t222112112 collectScores_nil) rfl

theorem v220112102 : readBoardAux P2 4 (⟨N2, N2, N0, N1, N1, N2, N1, N0, N2⟩ : Grid) P1 = some (ZM, some M02) :=
  readBoardAux_step P2 3 (⟨N2, N2, N0, N1, N1, N2, N1, N0, N2⟩ : Grid) P1 [M02, M21] rfl rfl
    (collectScores_cons t221112102 (collectScores_cons v220112112 collectScores_nil)) rfl

theorem v220112100 : readBoardAux P2 5 (⟨N2, N2, N0, N1, N1, N2, N1, N0, N0⟩ : Grid) P2 = some (ZP, some M02) :=
  readBoardAux_step P2 4 (⟨N2, N2, N0, N1, N1, N2, N1, N0, N0⟩ : Grid) P2 [M02, M21, M22] rfl rfl
    (collectScores_cons t222112100 (collectScores_cons v220112120 (collectScores_cons v220112102 collectScores_nil))) rfl

theorem t222112010 : readBoardAux P2 4 (⟨N2, N2, N2, N1, N1, N2, N0, N1, N0⟩ : Grid) P1 = some (ZP, none) :=
  rfl

theorem t222112211 : readBoardAux P2 2 (⟨N2, N2, N2, N1, N1, N2, N2, N1, N1⟩ : Grid) P1 = some (ZP, none) :=
  rfl

theorem v220112211 : readBoardAux P2 3 (⟨N2, N2, N0, N1, N1, N2, N2, N1, N1⟩ : Grid) P2 = some (ZP, some M02) :=
  readBoardAux_step P2 2 (⟨N2, N2, N0, N1, N1, N2, N2, N1, N1⟩ : Grid) P2 [M02] rfl rfl
    (collectScores_cons t222112211 collectScores_nil) rfl

theorem v220112210 : readBoardAux P2 4 (⟨N2, N2, N0, N1, N1, N2, N2, N1, N0⟩ : Grid) P1 = some (Z0, some M02) :=
  readBoardAux_step P2 3 (⟨N2, N2, N0, N1, N1, N2, N2, N1, N0⟩ : Grid) P1 [M02, M22] rfl rfl
    (collectScores_cons v221112210 (collectScores_cons v220112211 collectScores_nil)) rfl

theorem v220112012 : readBoardAux P2 4 (⟨N2, N2, N0, N1, N1, N2, N0, N1, N2⟩ : Grid) P1 = some (Z0, some M02) :=
  readBoardAux_step P2 3 (⟨N2, N2, N0, N1, N1, N2, N0, N1, N2⟩ : Grid) P1 [M02, M20] rfl rfl
    (collectScores_cons v221112012 (collectScores_cons v220112112 collectScores_nil)) rfl

theorem v220112010 : readBoardAux P2 5 (⟨N2, N2, N0, N1, N1, N2, N0, N1, N0⟩ : Grid) P2 = some (ZP, some M02) :=
  readBoardAux_step P2 4 (⟨N2, N2, N0, N1, N1, N2, N0, N1, N0⟩ : Grid) P2 [M02, M20, M22] rfl rfl
    (collectScores_cons t222112010 (collectScores_cons v220112210 (collectScores_cons v220112012 collectScores_nil))) rfl

theorem t222112001 : readBoardAux P2 4 (⟨N2, N2, N2, N1, N1, N2, N0, N0, N1⟩ : Grid) P1 = some (ZP, none) :=
  rfl

theorem v220112201 : readBoardAux P2 4 (⟨N2, N2, N0, N1, N1, N2, N2, N0, N1⟩ : Grid) P1 = some (Z0, some M02) :=
  readBoardAux_step P2 3 (⟨N2, N2, N0, N1, N1, N2, N2, N0, N1⟩ : Grid) P1 [M02, M21] rfl rfl
    (collectScores_cons v221112201 (collectScores_cons v220112211 collectScores_nil)) rfl

theorem v220112021 : readBoardAux P2 4 (⟨N2, N2, N0, N1, N1, N2, N0, N2, N1⟩ : Grid) P1 = some (Z0, some M02) :=
  readBoardAux_step P2 3 (⟨N2, N2, N0, N1, N1, N2, N0, N2, N1⟩ : Grid) P1 [M02, M20] rfl rfl
    (collectScores_cons v221112021 (collectScores_cons v220112121 collectScores_nil)) rfl

theorem v220112001 : readBoardAux P2 5 (⟨N2, N2, N0, N1, N1, N2, N0, N0, N1⟩ : Grid) P2 = some (ZP, some M02) :=
  readBoardAux_step P2 4 (⟨N2, N2, N0, N1, N1, N2, N0, N0, N1⟩ : Grid) P2 [M02, M20, M21] rfl rfl
    (collectScores_cons t222112001 (collectScores_cons v220112201 (collectScores_cons v220112021 collectScores_nil))) rfl

theorem v220112000 : readBoardAux P2 6 (⟨N2, N2, N0, N1, N1, N2, N0, N0, N0⟩ : Grid) P1 = some (Z0, some M02) :=
  readBoardAux_step P2 5 (⟨N2, N2, N0, N1, N1, N2, N0, N0, N0⟩ : Grid) P1 [M02, M20, M21, M22] rfl rfl
    (collectScores_cons v221112000 (collectScores_cons v220112100 (collectScores_cons v220112010 (collectScores_cons v220112001 collectScores_nil)))) rfl

theorem t220111200 : readBoardAux P2 5 (⟨N2, N2, N0, N1, N1, N1, N2, N0, N0⟩ : Grid) P2 = some (ZM, none) :=
  rfl

theorem t222110210 : readBoardAux P2 4 (⟨N2, N2, N2, N1, N1, N0, N2, N1, N0⟩ : Grid) P1 = some (ZP, none) :=
  rfl

theorem t220111212 : readBoardAux P2 3 (⟨N2, N2, N0, N1, N1, N1, N2, N1, N2⟩ : Grid) P2 = some (ZM, none) :=
  rfl

theorem v220110212 : readBoardAux P2 4 (⟨N2, N2, N0, N1, N1, N0, N2, N1, N2⟩ : Grid) P1 = some (ZM, some M12) :=
  readBoardAux_step P2 3 (⟨N2, N2, N0, N1, N1, N0, N2, N1, N2⟩ : Grid) P1 [M02, M12] rfl rfl
    (collectScores_cons v221110212 (collectScores_cons t220111212 collectScores_nil)) rfl

theorem v220110210 : readBoardAux P2 5 (⟨N2, N2, N0, N1, N1, N0, N2, N1, N0⟩ : Grid) P2 = some (ZP, some M02) :=
  readBoardAux_step P2 4 (⟨N2, N2, N0, N1, N1, N0, N2, N1, N0⟩ : Grid) P2 [M02, M12, M22] rfl rfl
    (collectScores_cons t222110210 (collectScores_cons v220112210 (collectScores_cons v220110212 collectScores_nil))) rfl

theorem t222110201 : readBoardAux P2 4 (⟨N2, N2, N2, N1, N1, N0, N2, N0, N1⟩ : Grid) P1 = some (ZP, none) :=
  rfl

theorem t220111221 : readBoardAux P2 3 (⟨N2, N2, N0, N1, N1, N1, N2, N2, N1⟩ : Grid) P2 = some (ZM, none) :=
  rfl

theorem v220110221 : readBoardAux P2 4 (⟨N2, N2, N0, N1, N1, N0, N2, N2, N1⟩ : Grid) P1 = some (ZM, some M12) :=
  readBoardAux_step P2 3 (⟨N2, N2, N0, N1, N1, N0, N2, N2, N1⟩ : Grid) P1 [M02, M12] rfl rfl
    (collectScores_cons v221110221 (collectScores_cons t220111221 collectScores_nil)) rfl

theorem v220110201 : readBoardAux P2 5 (⟨N2, N2, N0, N1, N1, N0, N2, N0, N1⟩ : Grid) P2 = some (ZP, some M02) :=
  readBoardAux_step P2 4 (⟨N2, N2, N0, N1, N1, N0, N2, N0, N1⟩ : Grid) P2 [M02, M12, M21] rfl rfl
    (collectScores_cons t222110201 (collectScores_cons v220112201 (collectScores_cons v220110221 collectScores_nil))) rfl

theorem v220110200 : readBoardAux P2 6 (⟨N2, N2, N0, N1, N1, N0, N2, N0, N0⟩ : Grid) P1 = some (ZM, some M12) :=
  readBoardAux_step P2 5 (⟨N2, N2, N0, N1, N1, N0, N2, N0, N0⟩ : Grid) P1 [M02, M12, M21, M22] rfl rfl
    (collectScores_cons v221110200 (collectScores_cons t220111200 (collectScores_cons v220110210 (collectScores_cons v220110201 collectScores_nil)))) rfl

theorem t220111020 : readBoardAux P2 5 (⟨N2, N2, N0, N1, N1, N1, N0, N2, N0⟩ : Grid) P2 = some (ZM, none) :=
  rfl

theorem t222110120 : readBoardAux P2 4 (⟨N2, N2, N2, N1, N1, N0, N1, N2, N0⟩ : Grid) P1 = some (ZP, none) :=
  rfl

theorem t220111122 : readBoardAux P2 3 (⟨N2, N2, N0, N1, N1, N1, N1, N2, N2⟩ : Grid) P2 = some (ZM, none) :=
  rfl

theorem v220110122 : readBoardAux P2 4 (⟨N2, N2, N0, N1, N1, N0, N1, N2, N2⟩ : Grid) P1 = some (ZM, some M02) :=
  readBoardAux_step P2 3 (⟨N2, N2, N0, N1, N1, N0, N1, N2, N2⟩ : Grid) P1 [M02, M12] rfl rfl
    (collectScores_cons t221110122 (collectScores_cons t220111122 collectScores_nil)) rfl

theorem v220110120 : readBoardAux P2 5 (⟨N2, N2, N0, N1, N1, N0, N1, N2, N0⟩ : Grid) P2 = some (ZP, some M02) :=
  readBoardAux_step P2 4 (⟨N2, N2, N0, N1, N1, N0, N1, N2, N0⟩ : Grid) P2 [M02, M12, M22] rfl rfl
    (collectScores_cons t222110120 (collectScores_cons v220112120 (collectScores_cons v220110122 collectScores_nil))) rfl

theorem t222110021 : readBoardAux P2 4 (⟨N2, N2, N2, N1, N1, N0, N0, N2, N1⟩ : Grid) P1 = some (ZP, none) :=
  rfl

theorem v220110021 : readBoardAux P2 5 (⟨N2, N2, N0, N1, N1, N0, N0, N2, N1⟩ : Grid) P2 = some (ZP, some M02) :=
  readBoardAux_step P2 4 (⟨N2, N2, N0, N1, N1, N0, N0, N2, N1⟩ : Grid) P2 [M02, M12, M20] rfl rfl
    (collectScores_cons t222110021 (collectScores_cons v220112021 (collectScores_cons v220110221 collectScores_nil))) rfl

theorem v220110020 : readBoardAux P2 6 (⟨N2, N2, N0, N1, N1, N0, N0, N2, N0⟩ : Grid) P1 = some (ZM, some M02) :=
  readBoardAux_step P2 5 (⟨N2, N2, N0, N1, N1, N0, N0, N2, N0⟩ : Grid) P1 [M02, M12, M20, M22] rfl rfl
    (collectScores_cons v221110020 (collectScores_cons t220111020 (collectScores_cons v220110120 (collectScores_cons v220110021 collectScores_nil)))) rfl

theorem t220111002 : readBoardAux P2 5 (⟨N2, N2, N0, N1, N1, N1, N0, N0, N2⟩ : Grid) P2 = some (ZM, none) :=
  rfl

theorem t222110102 : readBoardAux P2 4 (⟨N2, N2, N2, N1, N1, N0, N1, N0, N2⟩ : Grid) P1 = some (ZP, none) :=
  rfl

theorem v220110102 : readBoardAux P2 5 (⟨N2, N2, N0, N1, N1, N0, N1, N0, N2⟩ : Grid) P2 = some (ZP, some M02) :=
  readBoardAux_step P2 4 (⟨N2, N2, N0, N1, N1, N0, N1, N0, N2⟩ : Grid) P2 [M02, M12, M21] rfl rfl
    (collectScores_cons t222110102 (collectScores_cons v220112102 (collectScores_cons v220110122 collectScores_nil))) rfl

theorem t222110012 : readBoardAux P2 4 (⟨N2, N2, N2, N1, N1, N0, N0, N1, N2⟩ : Grid) P1 = some (ZP, none) :=
  rfl

theorem v220110012 : readBoardAux P2 5 (⟨N2, N2, N0, N1, N1, N0, N0, N1, N2⟩ : Grid) P2 = some (ZP, some M02) :=
  readBoardAux_step P2 4 (⟨N2, N2, N0, N1, N1, N0, N0, N1, N2⟩ : Grid) P2 [M02, M12, M20] rfl rfl
    (collectScores_cons t222110012 (collectScores_cons v220112012 (collectScores_cons v220110212 collectScores_nil))) rfl

theorem v220110002 : readBoardAux P2 6 (⟨N2, N2, N0, N1, N1, N0, N0, N0, N2⟩ : Grid) P1 = some (ZM, some M02) :=
  readBoardAux_step P2 5 (⟨N2, N2, N0, N1, N1, N0, N0, N0, N2⟩ : Grid) P1 [M02, M12, M20, M21] rfl rfl
    (collectScores_cons v221110002 (collectScores_cons t220111002 (collectScores_cons v220110102 (collectScores_cons v220110012 collectScores_nil)))) rfl

theorem v220110000 : readBoardAux P2 7 (⟨N2, N2, N0, N1, N1, N0, N0, N0, N0⟩ : Grid) P2 = some (ZP, some M02) :=
  readBoardAux_step P2 6 (⟨N2, N2, N0, N1, N1, N0, N0, N0, N0⟩ : Grid) P2 [M02, M12, M20, M21, M22] rfl rfl
    (collectScores_cons t222110000 (collectScores_cons v220112000 (collectScores_cons v220110200 (collectScores_cons v220110020 (collectScores_cons v220110002 collectScores_nil))))) rfl

theorem t222101000 : readBoardAux P2 6 (⟨N2, N2, N2, N1, N0, N1, N0, N0, N0⟩ : Grid) P1 = some (ZP, none) :=
  rfl

theorem t222121100 : readBoardAux P2 4 (⟨N2, N2, N2, N1, N2, N1, N1, N0, N0⟩ : Grid) P1 = some (ZP, none) :=
  rfl

theorem t220121120 : readBoardAux P2 4 (⟨N2, N2, N0, N1, N2, N1, N1, N2, N0⟩ : Grid) P1 = some (ZP, none) :=
  rfl

theorem t220121102 : readBoardAux P2 4 (⟨N2, N2, N0, N1, N2, N1, N1, N0, N2⟩ : Grid) P1 = some (ZP, none) :=
  rfl

theorem v220121100 : readBoardAux P2 5 (⟨N2, N2, N0, N1, N2, N1, N1, N0, N0⟩ : Grid) P2 = some (ZP, some M02) :=
  readBoardAux_step P2 4 (⟨N2, N2, N0, N1, N2, N1, N1, N0, N0⟩ : Grid) P2 [M02, M21, M22] rfl rfl
    (collectScores_cons t222121100 (collectScores_cons t220121120 (collectScores_cons t220121102 collectScores_nil))) rfl

theorem t222121010 : readBoardAux P2 4 (⟨N2, N2, N2, N1, N2, N1, N0, N1, N0⟩ : Grid) P1 = some (ZP, none) :=
  rfl

theorem t222121211 : readBoardAux P2 2 (⟨N2, N2, N2, N1, N2, N1, N2, N1, N1⟩ : Grid) P1 = some (ZP, none) :=
  rfl

theorem v220121211 : readBoardAux P2 3 (⟨N2, N2, N0, N1, N2, N1, N2, N1, N1⟩ : Grid) P2 = some (ZP, some M02) :=
  readBoardAux_step P2 2 (⟨N2, N2, N0, N1, N2, N1, N2, N1, N1⟩ : Grid) P2 [M02] rfl rfl
    (collectScores_cons t222121211 collectScores_nil) rfl

theorem v220121210 : readBoardAux P2 4 (⟨N2, N2, N0, N1, N2, N1, N2, N1, N0⟩ : Grid) P1 = some (ZP, some M02) :=
  readBoardAux_step P2 3 (⟨N2, N2, N0, N1, N2, N1, N2, N1, N0⟩ : Grid) P1 [M02, M22] rfl rfl
    (collectScores_cons v221121210 (collectScores_cons v220121211 collectScores_nil)) rfl

theorem t220121012 : readBoardAux P2 4 (⟨N2, N2, N0, N1, N2, N1, N0, N1, N2⟩ : Grid) P1 = some (ZP, none) :=
  rfl

theorem v220121010 : readBoardAux P2 5 (⟨N2, N2, N0, N1, N2, N1, N0, N1, N0⟩ : Grid) P2 = some (ZP, some M02) :=
  readBoardAux_step P2 4 (⟨N2, N2, N0, N1, N2, N1, N0, N1, N0⟩ : Grid) P2 [M02, M20, M22] rfl rfl
    (collectScores_cons t222121010 (collectScores_cons v220121210 (collectScores_cons t220121012 collectScores_nil))) rfl

theorem t222121001 : readBoardAux P2 4 (⟨N2, N2, N2, N1, N2, N1, N0, N0, N1⟩ : Grid) P1 = some (ZP, none) :=
  rfl

theorem v220121201 : readBoardAux P2 4 (⟨N2, N2, N0, N1, N2, N1, N2, N0, N1⟩ : Grid) P1 = some (ZM, some M02) :=
  readBoardAux_step P2 3 (⟨N2, N2, N0, N1, N2, N1, N2, N0, N1⟩ : Grid) P1 [M02, M21] rfl rfl
    (collectScores_cons t221121201 (collectScores_cons v220121211 collectScores_nil)) rfl

theorem t220121021 : readBoardAux P2 4 (⟨N2, N2, N0, N1, N2, N1, N0, N2, N1⟩ : Grid) P1 = some (ZP, none) :=
  rfl

theorem v220121001 : readBoardAux P2 5 (⟨N2, N2, N0, N1, N2, N1, N0, N0, N1⟩ : Grid) P2 = some (ZP, some M02) :=
  readBoardAux_step P2 4 (⟨N2, N2, N0, N1, N2, N1, N0, N0, N1⟩ : Grid) P2 [M02, M20, M21] rfl rfl
    (collectScores_cons t222121001 (collectScores_cons v220121201 (collectScores_cons t220121021 collectScores_nil))) rfl

theorem v220121000 : readBoardAux P2 6 (⟨N2, N2, N0, N1, N2, N1, N0, N0, N0⟩ : Grid) P1 = some (ZP, some M02) :=
  readBoardAux_step P2 5 (⟨N2, N2, N0, N1, N2, N1, N0, N0, N0⟩ : Grid) P1 [M02, M20, M21, M22] rfl rfl
    (collectScores_cons v221121000 (collectScores_cons v220121100 (collectScores_cons v220121010 (collectScores_cons v220121001 collectScores_nil)))) rfl

theorem t222101210 : readBoardAux P2 4 (⟨N2, N2, N2, N1, N0, N1, N2, N1, N0⟩ : Grid) P1 = some (ZP, none) :=
  rfl

theorem v220101212 : readBoardAux P2 4 (⟨N2, N2, N0, N1, N0, N1, N2, N1, N2⟩ : Grid) P1 = some (ZM, some M11) :=
  readBoardAux_step P2 3 (⟨N2, N2, N0, N1, N0, N1, N2, N1, N2⟩ : Grid) P1 [M02, M11] rfl rfl
    (collectScores_cons v221101212 (collectScores_cons t220111212 collectScores_nil)) rfl

theorem v220101210 : readBoardAux P2 5 (⟨N2, N2, N0, N1, N0, N1, N2, N1, N0⟩ : Grid) P2 = some (ZP, some M02) :=
  readBoardAux_step P2 4 (⟨N2, N2, N0, N1, N0, N1, N2, N1, N0⟩ : Grid) P2 [M02, M11, M22] rfl rfl
    (collectScores_cons t222101210 (collectScores_cons v220121210 (collectScores_cons v220101212 collectScores_nil))) rfl

theorem t222101201 : readBoardAux P2 4 (⟨N2, N2, N2, N1, N0, N1, N2, N0, N1⟩ : Grid) P1 = some (ZP, none) :=
  rfl

theorem v220101221 : readBoardAux P2 4 (⟨N2, N2, N0, N1, N0, N1, N2, N2, N1⟩ : Grid) P1 = some (ZM, some M02) :=
  readBoardAux_step P2 3 (⟨N2, N2, N0, N1, N0, N1, N2, N2, N1⟩ : Grid) P1 [M02, M11] rfl rfl
    (collectScores_cons t221101221 (collectScores_cons t220111221 collectScores_nil)) rfl

theorem v220101201 : readBoardAux P2 5 (⟨N2, N2, N0, N1, N0, N1, N2, N0, N1⟩ : Grid) P2 = some (ZP, some M02) :=
  readBoardAux_step P2 4 (⟨N2, N2, N0, N1, N0, N1, N2, N0, N1⟩ : Grid) P2 [M02, M11, M21] rfl rfl
    (collectScores_cons t222101201 (collectScores_cons v220121201 (collectScores_cons v220101221 collectScores_nil))) rfl

theorem v220101200 : readBoardAux P2 6 (⟨N2, N2, N0, N1, N0, N1, N2, N0, N0⟩ : Grid) P1 = some (ZM, some M02) :=
  readBoardAux_step P2 5 (⟨N2, N2, N0, N1, N0, N1, N2, N0, N0⟩ : Grid) P1 [M02, M11, M21, M22] rfl rfl
    (collectScores_cons v221101200 (collectScores_cons t220111200 (collectScores_cons v220101210 (collectScores_cons v220101201 collectScores_nil)))) rfl

theorem t222101120 : readBoardAux P2 4 (⟨N2, N2, N2, N1, N0, N1, N1, N2, N0⟩ : Grid) P1 = some (ZP, none) :=
  rfl

theorem v220101122 : readBoardAux P2 4 (⟨N2, N2, N0, N1, N0, N1, N1, N2, N2⟩ : Grid) P1 = some (ZM, some M11) :=
  readBoardAux_step P2 3 (⟨N2, N2, N0, N1, N0, N1, N1, N2, N2⟩ : Grid) P1 [M02, M11] rfl rfl
    (collectScores_cons v221101122 (collectScores_cons t220111122 collectScores_nil)) rfl

theorem v220101120 : readBoardAux P2 5 (⟨N2, N2, N0, N1, N0, N1, N1, N2, N0⟩ : Grid) P2 = some (ZP, some M02) :=
  readBoardAux_step P2 4 (⟨N2, N2, N0, N1, N0, N1, N1, N2, N0⟩ : Grid) P2 [M02, M11, M22] rfl rfl
    (collectScores_cons t222101120 (collectScores_cons t220121120 (collectScores_cons v220101122 collectScores_nil))) rfl

theorem t222101021 : readBoardAux P2 4 (⟨N2, N2, N2, N1, N0, N1, N0, N2, N1⟩ : Grid) P1 = some (ZP, none) :=
  rfl

theorem v220101021 : readBoardAux P2 5 (⟨N2, N2, N0, N1, N0, N1, N0, N2, N1⟩ : Grid) P2 = some (ZP, some M02) :=
  readBoardAux_step P2 4 (⟨N2, N2, N0, N1, N0, N1, N0, N2, N1⟩ : Grid) P2 [M02, M11, M20] rfl rfl
    (collectScores_cons t222101021 (collectScores_cons t220121021 (collectScores_cons v220101221 collectScores_nil))) rfl

theorem v220101020 : readBoardAux P2 6 (⟨N2, N2, N0, N1, N0, N1, N0, N2, N0⟩ : Grid) P1 = some (ZM, some M11) :=
  readBoardAux_step P2 5 (⟨N2, N2, N0, N1, N0, N1, N0, N2, N0⟩ : Grid) P1 [M02, M11, M20, M22] rfl rfl
    (collectScores_cons v221101020 (collectScores_cons t220111020 (collectScores_cons v220101120 (collectScores_cons v220101021 collectScores_nil)))) rfl

theorem t222101102 : readBoardAux P2 4 (⟨N2, N2, N2, N1, N0, N1, N1, N0, N2⟩ : Grid) P1 = some (ZP, none) :=
  rfl

theorem v220101102 : readBoardAux P2 5 (⟨N2, N2, N0, N1, N0, N1, N1, N0, N2⟩ : Grid) P2 = some (ZP, some M02) :=
  readBoardAux_step P2 4 (⟨N2, N2, N0, N1, N0, N1, N1, N0, N2⟩ : Grid) P2 [M02, M11, M21] rfl rfl
    (collectScores_cons t222101102 (collectScores_cons t220121102 (collectScores_cons v220101122 collectScores_nil))) rfl

theorem t222101012 : readBoardAux P2 4 (⟨N2, N2, N2, N1, N0, N1, N0, N1, N2⟩ : Grid) P1 = some (ZP, none) :=
  rfl

theorem v220101012 : readBoardAux P2 5 (⟨N2, N2, N0, N1, N0, N1, N0, N1, N2⟩ : Grid) P2 = some (ZP, some M02) :=
  readBoardAux_step P2 4 (⟨N2, N2, N0, N1, N0, N1, N0, N1, N2⟩ : Grid) P2 [M02, M11, M20] rfl rfl
    (collectScores_cons t222101012 (collectScores_cons t220121012 (collectScores_cons v220101212 collectScores_nil))) rfl

theorem v220101002 : readBoardAux P2 6 (⟨N2, N2, N0, N1, N0, N1, N0, N0, N2⟩ : Grid) P1 = some (ZM, some M11) :=
  readBoardAux_step P2 5 (⟨N2, N2, N0, N1, N0, N1, N0, N0, N2⟩ : Grid) P1 [M02, M11, M20, M21] rfl rfl
    (collectScores_cons v221101002 (collectScores_cons t220111002 (collectScores_cons v220101102 (collectScores_cons v220101012 collectScores_nil)))) rfl

theorem v220101000 : readBoardAux P2 7 (⟨N2, N2, N0, N1, N0, N1, N0, N0, N0⟩ : Grid) P2 = some (ZP, some M02) :=
  readBoardAux_step P2 6 (⟨N2, N2, N0, N1, N0, N1, N0, N0, N0⟩ : Grid) P2 [M02, M11, M20, M21, M22] rfl rfl
    (collectScores_cons t222101000 (collectScores_cons v220121000 (collectScores_cons v220101200 (collectScores_cons v220101020 (collectScores_cons v220101002 collectScores_nil))))) rfl

theorem t222100100 : readBoardAux P2 6 (⟨N2, N2, N2, N1, N0, N0, N1, N0, N0⟩ : Grid) P1 = some (ZP, none) :=
  rfl

theorem t222120110 : readBoardAux P2 4 (⟨N2, N2, N2, N1, N2, N0, N1, N1, N0⟩ : Grid) P1 = some (ZP, none) :=
  rfl

theorem t220122111 : readBoardAux P2 3 (⟨N2, N2, N0, N1, N2, N2, N1, N1, N1⟩ : Grid) P2 = some (ZM, none) :=
  rfl

theorem v220122110 : readBoardAux P2 4 (⟨N2, N2, N0, N1, N2, N2, N1, N1, N0⟩ : Grid) P1 = some (ZM, some M22) :=
  readBoardAux_step P2 3 (⟨N2, N2, N0, N1, N2, N2, N1, N1, N0⟩ : Grid) P1 [M02, M22] rfl rfl
    (collectScores_cons v221122110 (collectScores_cons t220122111 collectScores_nil)) rfl

theorem t220120112 : readBoardAux P2 4 (⟨N2, N2, N0, N1, N2, N0, N1, N1, N2⟩ : Grid) P1 = some (ZP, none) :=
  rfl

theorem v220120110 : readBoardAux P2 5 (⟨N2, N2, N0, N1, N2, N0, N1, N1, N0⟩ : Grid) P2 = some (ZP, some M02) :=
  readBoardAux_step P2 4 (⟨N2, N2, N0, N1, N2, N0, N1, N1, N0⟩ : Grid) P2 [M02, M12, M22] rfl rfl
    (collectScores_cons t222120110 (collectScores_cons v220122110 (collectScores_cons t220120112 collectScores_nil))) rfl

theorem t222120101 : readBoardAux P2 4 (⟨N2, N2, N2, N1, N2, N0, N1, N0, N1⟩ : Grid) P1 = some (ZP, none) :=
  rfl

theorem v220122101 : readBoardAux P2 4 (⟨N2, N2, N0, N1, N2, N2, N1, N0, N1⟩ : Grid) P1 = some (ZM, some M21) :=
  readBoardAux_step P2 3 (⟨N2, N2, N0, N1, N2, N2, N1, N0, N1⟩ : Grid) P1 [M02, M21] rfl rfl
    (collectScores_cons v221122101 (collectScores_cons t220122111 collectScores_nil)) rfl

theorem t220120121 : readBoardAux P2 4 (⟨N2, N2, N0, N1, N2, N0, N1, N2, N1⟩ : Grid) P1 = some (ZP, none) :=
  rfl

theorem v220120101 : readBoardAux P2 5 (⟨N2, N2, N0, N1, N2, N0, N1, N0, N1⟩ : Grid) P2 = some (ZP, some M02) :=
  readBoardAux_step P2 4 (⟨N2, N2, N0, N1, N2, N0, N1, N0, N1⟩ : Grid) P2 [M02, M12, M21] rfl rfl
    (collectScores_cons t222120101 (collectScores_cons v220122101 (collectScores_cons t220120121 collectScores_nil))) rfl

theorem v220120100 : readBoardAux P2 6 (⟨N2, N2, N0, N1, N2, N0, N1, N0, N0⟩ : Grid) P1 = some (ZP, some M02) :=
  readBoardAux_step P2 5 (⟨N2, N2, N0, N1, N2, N0, N1, N0, N0⟩ : Grid) P1 [M02, M12, M21, M22] rfl rfl
    (collectScores_cons v221120100 (collectScores_cons v220121100 (collectScores_cons v220120110 (collectScores_cons v220120101 collectScores_nil)))) rfl

theorem t222102110 : readBoardAux P2 4 (⟨N2, N2, N2, N1, N0, N2, N1, N1, N0⟩ : Grid) P1 = some (ZP, none) :=
  rfl

theorem v220102112 : readBoardAux P2 4 (⟨N2, N2, N0, N1, N0, N2, N1, N1, N2⟩ : Grid) P1 = some (ZP, some M02) :=
  readBoardAux_step P2 3 (⟨N2, N2, N0, N1, N0, N2, N1, N1, N2⟩ : Grid) P1 [M02, M11] rfl rfl
    (collectScores_cons v221102112 (collectScores_cons v220112112 collectScores_nil)) rfl

theorem v220102110 : readBoardAux P2 5 (⟨N2, N2, N0, N1, N0, N2, N1, N1, N0⟩ : Grid) P2 = some (ZP, some M02) :=
  readBoardAux_step P2 4 (⟨N2, N2, N0, N1, N0, N2, N1, N1, N0⟩ : Grid) P2 [M02, M11, M22] rfl rfl
    (collectScores_cons t222102110 (collectScores_cons v220122110 (collectScores_cons v220102112 collectScores_nil))) rfl

theorem t222102101 : readBoardAux P2 4 (⟨N2, N2, N2, N1, N0, N2, N1, N0, N1⟩ : Grid) P1 = some (ZP, none) :=
  rfl

theorem v220102121 : readBoardAux P2 4 (⟨N2, N2, N0, N1, N0, N2, N1, N2, N1⟩ : Grid) P1 = some (ZP, some M02) :=
  readBoardAux_step P2 3 (⟨N2, N2, N0, N1, N0, N2, N1, N2, N1⟩ : Grid) P1 [M02, M11] rfl rfl
    (collectScores_cons v221102121 (collectScores_cons v220112121 collectScores_nil)) rfl

theorem v220102101 : readBoardAux P2 5 (⟨N2, N2, N0, N1, N0, N2, N1, N0, N1⟩ : Grid) P2 = some (ZP, some M02) :=
  readBoardAux_step P2 4 (⟨N2, N2, N0, N1, N0, N2, N1, N0, N1⟩ : Grid) P2 [M02, M11, M21] rfl rfl
    (collectScores_cons t222102101 (collectScores_cons v220122101 (collectScores_cons v220102121 collectScores_nil))) rfl

theorem v220102100 : readBoardAux P2 6 (⟨N2, N2, N0, N1, N0, N2, N1, N0, N0⟩ : Grid) P1 = some (ZP, some M02) :=
  readBoardAux_step P2 5 (⟨N2, N2, N0, N1, N0, N2, N1, N0, N0⟩ : Grid) P1 [M02, M11, M21, M22] rfl rfl
    (collectScores_cons v221102100 (collectScores_cons v220112100 (collectScores_cons v220102110 (collectScores_cons v220102101 collectScores_nil)))) rfl

theorem t222100121 : readBoardAux P2 4 (⟨N2, N2, N2, N1, N0, N0, N1, N2, N1⟩ : Grid) P1 = some (ZP, none) :=
  rfl

theorem v220100121 : readBoardAux P2 5 (⟨N2, N2, N0, N1, N0, N0, N1, N2, N1⟩ : Grid) P2 = some (ZP, some M02) :=
  readBoardAux_step P2 4 (⟨N2, N2, N0, N1, N0, N0, N1, N2, N1⟩ : Grid) P2 [M02, M11, M12] rfl rfl
    (collectScores_cons t222100121 (collectScores_cons t220120121 (collectScores_cons v220102121 collectScores_nil))) rfl

theorem v220100120 : readBoardAux P2 6 (⟨N2, N2, N0, N1, N0, N0, N1, N2, N0⟩ : Grid) P1 = some (ZP, some M02) :=
  readBoardAux_step P2 5 (⟨N2, N2, N0, N1, N0, N0, N1, N2, N0⟩ : Grid) P1 [M02, M11, M12, M22] rfl rfl
    (collectScores_cons v221100120 (collectScores_cons v220110120 (collectScores_cons v220101120 (collectScores_cons v220100121 collectScores_nil)))) rfl

theorem t222100112 : readBoardAux P2 4 (⟨N2, N2, N2, N1, N0, N0, N1, N1, N2⟩ : Grid) P1 = some (ZP, none) :=
  rfl

theorem v220100112 : readBoardAux P2 5 (⟨N2, N2, N0, N1, N0, N0, N1, N1, N2⟩ : Grid) P2 = some (ZP, some M02) :=
  readBoardAux_step P2 4 (⟨N2, N2, N0, N1, N0, N0, N1, N1, N2⟩ : Grid) P2 [M02, M11, M12] rfl rfl
    (collectScores_cons t222100112 (collectScores_cons t220120112 (collectScores_cons v220102112 collectScores_nil))) rfl

theorem v220100102 : readBoardAux P2 6 (⟨N2, N2, N0, N1, N0, N0, N1, N0, N2⟩ : Grid) P1 = some (ZP, some M02) :=
  readBoardAux_step P2 5 (⟨N2, N2, N0, N1, N0, N0, N1, N0, N2⟩ : Grid) P1 [M02, M11, M12, M21] rfl rfl
    (collectScores_cons v221100102 (collectScores_cons v220110102 (collectScores_cons v220101102 (collectScores_cons v220100112 collectScores_nil)))) rfl

theorem v220100100 : readBoardAux P2 7 (⟨N2, N2, N0, N1, N0, N0, N1, N0, N0⟩ : Grid) P2 = some (ZP, some M02) :=
  readBoardAux_step P2 6 (⟨N2, N2, N0, N1, N0, N0, N1, N0, N0⟩ : Grid) P2 [M02, M11, M12, M21, M22] rfl rfl
    (collectScores_cons t222100100 (collectScores_cons v220120100 (collectScores_cons v220102100 (collectScores_cons v220100120 (collectScores_cons v220100102 collectScores_nil))))) rfl

theorem t222100010 : readBoardAux P2 6 (⟨N2, N2, N2, N1, N0, N0, N0, N1, N0⟩ : Grid) P1 = some (ZP, none) :=
  rfl

theorem t222120011 : readBoardAux P2 4 (⟨N2, N2, N2, N1, N2, N0, N0, N1, N1⟩ : Grid) P1 = some (ZP, none) :=
  rfl

theorem v220122011 : readBoardAux P2 4 (⟨N2, N2, N0, N1, N2, N2, N0, N1, N1⟩ : Grid) P1 = some (ZM, some M20) :=
  readBoardAux_step P2 3 (⟨N2, N2, N0, N1, N2, N2, N0, N1, N1⟩ : Grid) P1 [M02, M20] rfl rfl
    (collectScores_cons v221122011 (collectScores_cons t220122111 collectScores_nil)) rfl

theorem v220120211 : readBoardAux P2 4 (⟨N2, N2, N0, N1, N2, N0, N2, N1, N1⟩ : Grid) P1 = some (Z0, some M02) :=
  readBoardAux_step P2 3 (⟨N2, N2, N0, N1, N2, N0, N2, N1, N1⟩ : Grid) P1 [M02, M12] rfl rfl
    (collectScores_cons v221120211 (collectScores_cons v220121211 collectScores_nil)) rfl

theorem v220120011 : readBoardAux P2 5 (⟨N2, N2, N0, N1, N2, N0, N0, N1, N1⟩ : Grid) P2 = some (ZP, some M02) :=
  readBoardAux_step P2 4 (⟨N2, N2, N0, N1, N2, N0, N0, N1, N1⟩ : Grid) P2 [M02, M12, M20] rfl rfl
    (collectScores_cons t222120011 (collectScores_cons v220122011 (collectScores_cons v220120211 collectScores_nil))) rfl

theorem v220120010 : readBoardAux P2 6 (⟨N2, N2, N0, N1, N2, N0, N0, N1, N0⟩ : Grid) P1 = some (ZP, some M02) :=
  readBoardAux_step P2 5 (⟨N2, N2, N0, N1, N2, N0, N0, N1, N0⟩ : Grid) P1 [M02, M12, M20, M22] rfl rfl
    (collectScores_cons v221120010 (collectScores_cons v220121010 (collectScores_cons v220120110 (collectScores_cons v220120011 collectScores_nil)))) rfl

theorem t222102011 : readBoardAux P2 4 (⟨N2, N2, N2, N1, N0, N2, N0, N1, N1⟩ : Grid) P1 = some (ZP, none) :=
  rfl

theorem v220102211 : readBoardAux P2 4 (⟨N2, N2, N0, N1, N0, N2, N2, N1, N1⟩ : Grid) P1 = some (Z0, some M02) :=
  readBoardAux_step P2 3 (⟨N2, N2, N0, N1, N0, N2, N2, N1, N1⟩ : Grid) P1 [M02, M11] rfl rfl
    (collectScores_cons v221102211 (collectScores_cons v220112211 collectScores_nil)) rfl

theorem v220102011 : readBoardAux P2 5 (⟨N2, N2, N0, N1, N0, N2, N0, N1, N1⟩ : Grid) P2 = some (ZP, some M02) :=
  readBoardAux_step P2 4 (⟨N2, N2, N0, N1, N0, N2, N0, N1, N1⟩ : Grid) P2 [M02, M11, M20] rfl rfl
    (collectScores_cons t222102011 (collectScores_cons v220122011 (collectScores_cons v220102211 collectScores_nil))) rfl

theorem v220102010 : readBoardAux P2 6 (⟨N2, N2, N0, N1, N0, N2, N0, N1, N0⟩ : Grid) P1 = some (Z0, some M02) :=
  readBoardAux_step P2 5 (⟨N2, N2, N0, N1, N0, N2, N0, N1, N0⟩ : Grid) P1 [M02, M11, M20, M22] rfl rfl
    (collectScores_cons v221102010 (collectScores_cons v220112010 (collectScores_cons v220102110 (collectScores_cons v220102011 collectScores_nil)))) rfl

theorem t222100211 : readBoardAux P2 4 (⟨N2, N2, N2, N1, N0, N0, N2, N1, N1⟩ : Grid) P1 = some (ZP, none) :=
  rfl

theorem v220100211 : readBoardAux P2 5 (⟨N2, N2, N0, N1, N0, N0, N2, N1, N1⟩ : Grid) P2 = some (ZP, some M02) :=
  readBoardAux_step P2 4 (⟨N2, N2, N0, N1, N0, N0, N2, N1, N1⟩ : Grid) P2 [M02, M11, M12] rfl rfl
    (collectScores_cons t222100211 (collectScores_cons v220120211 (collectScores_cons v220102211 collectScores_nil))) rfl

theorem v220100210 : readBoardAux P2 6 (⟨N2, N2, N0, N1, N0, N0, N2, N1, N0⟩ : Grid) P1 = some (Z0, some M02) :=
  readBoardAux_step P2 5 (⟨N2, N2, N0, N1, N0, N0, N2, N1, N0⟩ : Grid) P1 [M02, M11, M12, M22] rfl rfl
    (collectScores_cons v221100210 (collectScores_cons v220110210 (collectScores_cons v220101210 (collectScores_cons v220100211 collectScores_nil)))) rfl

theorem v220100012 : readBoardAux P2 6 (⟨N2, N2, N0, N1, N0, N0, N0, N1, N2⟩ : Grid) P1 = some (ZP, some M02) :=
  readBoardAux_step P2 5 (⟨N2, N2, N0, N1, N0, N0, N0, N1, N2⟩ : Grid) P1 [M02, M11, M12, M20] rfl rfl
    (collectScores_cons v221100012 (collectScores_cons v220110012 (collectScores_cons v220101012 (collectScores_cons v220100112 collectScores_nil)))) rfl

theorem v220100010 : readBoardAux P2 7 (⟨N2, N2, N0, N1, N0, N0, N0, N1, N0⟩ : Grid) P2 = some (ZP, some M02) :=
  readBoardAux_step P2 6 (⟨N2, N2, N0, N1, N0, N0, N0, N1, N0⟩ : Grid) P2 [M02, M11, M12, M20, M22] rfl rfl
    (collectScores_cons t222100010 (collectScores_cons v220120010 (collectScores_cons v220102010 (collectScores_cons v220100210 (collectScores_cons v220100012 collectScores_nil))))) rfl

theorem t222100001 : readBoardAux P2 6 (⟨N2, N2, N2, N1, N0, N0, N0, N0, N1⟩ : Grid) P1 = some (ZP, none) :=
  rfl

theorem v220120001 : readBoardAux P2 6 (⟨N2, N2, N0, N1, N2, N0, N0, N0, N1⟩ : Grid) P1 = some (ZP, some M02) :=
  readBoardAux_step P2 5 (⟨N2, N2, N0, N1, N2, N0, N0, N0, N1⟩ : Grid) P1 [M02, M12, M20, M21] rfl rfl
    (collectScores_cons v221120001 (collectScores_cons v220121001 (collectScores_cons v220120101 (collectScores_cons v220120011 collectScores_nil)))) rfl

theorem v220102001 : readBoardAux P2 6 (⟨N2, N2, N0, N1, N0, N2, N0, N0, N1⟩ : Grid) P1 = some (Z0, some M02) :=
  readBoardAux_step P2 5 (⟨N2, N2, N0, N1, N0, N2, N0, N0, N1⟩ : Grid) P1 [M02, M11, M20, M21] rfl rfl
    (collectScores_cons v221102001 (collectScores_cons v220112001 (collectScores_cons v220102101 (collectScores_cons v220102011 collectScores_nil)))) rfl

theorem v220100201 : readBoardAux P2 6 (⟨N2, N2, N0, N1, N0, N0, N2, N0, N1⟩ : Grid) P1 = some (Z0, some M02) :=
  readBoardAux_step P2 5 (⟨N2, N2, N0, N1, N0, N0, N2, N0, N1⟩ : Grid) P1 [M02, M11, M12, M21] rfl rfl
    (collectScores_cons v221100201 (collectScores_cons v220110201 (collectScores_cons v220101201 (collectScores_cons v220100211 collectScores_nil)))) rfl

theorem v220100021 : readBoardAux P2 6 (⟨N2, N2, N0, N1, N0, N0, N0, N2, N1⟩ : Grid) P1 = some (ZP, some M02) :=
  readBoardAux_step P2 5 (⟨N2, N2, N0, N1, N0, N0, N0, N2, N1⟩ : Grid) P1 [M02, M11, M12, M20] rfl rfl
    (collectScores_cons v221100021 (collectScores_cons v220110021 (collectScores_cons v220101021 (collectScores_cons v220100121 collectScores_nil)))) rfl

theorem v220100001 : readBoardAux P2 7 (⟨N2, N2, N0, N1, N0, N0, N0, N0, N1⟩ : Grid) P2 = some (ZP, some M02) :=
  readBoardAux_step P2 6 (⟨N2, N2, N0, N1, N0, N0, N0, N0, N1⟩ : Grid) P2 [M02, M11, M12, M20, M21] rfl rfl
    (collectScores_cons t222100001 (collectScores_cons v220120001 (collectScores_cons v220102001 (collectScores_cons v220100201 (collectScores_cons v220100021 collectScores_nil))))) rfl

theorem v220100000 : readBoardAux P2 8 (⟨N2, N2, N0, N1, N0, N0, N0, N0, N0⟩ : Grid) P1 = some (ZP, some M02) :=
  readBoardAux_step P2 7 (⟨N2, N2, N0, N1, N0, N0, N0, N0, N0⟩ : Grid) P1 [M02, M11, M12, M20, M21, M22] rfl rfl
    (collectScores_cons v221100000 (collectScores_cons v220110000 (collectScores_cons v220101000 (collectScores_cons v220100100 (collectScores_cons v220100010 (collectScores_cons v220100001 collectScores_nil)))))) rfl

theorem v202112121 : readBoardAux P2 3 (⟨N2, N0, N2, N1, N1, N2, N1, N2, N1⟩ : Grid) P2 = some (ZP, some M01) :=
  readBoardAux_step P2 2 (⟨N2, N0, N2, N1, N1, N2, N1, N2, N1⟩ : Grid) P2 [M01] rfl rfl
    (collectScores_cons t222112121 collectScores_nil) rfl

theorem v202112120 : readBoardAux P2 4 (⟨N2, N0, N2, N1, N1, N2, N1, N2, N0⟩ : Grid) P1 = some (ZP, some M01) :=
  readBoardAux_step P2 3 (⟨N2, N0, N2, N1, N1, N2, N1, N2, N0⟩ : Grid) P1 [M01, M22] rfl rfl
    (collectScores_cons v212112120 (collectScores_cons v202112121 collectScores_nil)) rfl

theorem t202112102 : readBoardAux P2 4 (⟨N2, N0, N2, N1, N1, N2, N1, N0, N2⟩ : Grid) P1 = some (ZP, none) :=
  rfl

theorem v202112100 : readBoardAux P2 5 (⟨N2, N0, N2, N1, N1, N2, N1, N0, N0⟩ : Grid) P2 = some (ZP, some M01) :=
  readBoardAux_step P2 4 (⟨N2, N0, N2, N1, N1, N2, N1, N0, N0⟩ : Grid) P2 [M01, M21, M22] rfl rfl
    (collectScores_cons t222112100 (collectScores_cons v202112120 (collectScores_cons t202112102 collectScores_nil))) rfl

theorem v202112211 : readBoardAux P2 3 (⟨N2, N0, N2, N1, N1, N2, N2, N1, N1⟩ : Grid) P2 = some (ZP, some M01) :=
  readBoardAux_step P2 2 (⟨N2, N0, N2, N1, N1, N2, N2, N1, N1⟩ : Grid) P2 [M01] rfl rfl
    (collectScores_cons t222112211 collectScores_nil) rfl

theorem v202112210 : readBoardAux P2 4 (⟨N2, N0, N2, N1, N1, N2, N2, N1, N0⟩ : Grid) P1 = some (ZM, some M01) :=
  readBoardAux_step P2 3 (⟨N2, N0, N2, N1, N1, N2, N2, N1, N0⟩ : Grid) P1 [M01, M22] rfl rfl
    (collectScores_cons t212112210 (collectScores_cons v202112211 collectScores_nil)) rfl

theorem t202112012 : readBoardAux P2 4 (⟨N2, N0, N2, N1, N1, N2, N0, N1, N2⟩ : Grid) P1 = some (ZP, none) :=
  rfl

theorem v202112010 : readBoardAux P2 5 (⟨N2, N0, N2, N1, N1, N2, N0, N1, N0⟩ : Grid) P2 = some (ZP, some M01) :=
  readBoardAux_step P2 4 (⟨N2, N0, N2, N1, N1, N2, N0, N1, N0⟩ : Grid) P2 [M01, M20, M22] rfl rfl
    (collectScores_cons t222112010 (collectScores_cons v202112210 (collectScores_cons t202112012 collectScores_nil))) rfl

theorem v202112201 : readBoardAux P2 4 (⟨N2, N0, N2, N1, N1, N2, N2, N0, N1⟩ : Grid) P1 = some (Z0, some M01) :=
  readBoardAux_step P2 3 (⟨N2, N0, N2, N1, N1, N2, N2, N0, N1⟩ : Grid) P1 [M01, M21] rfl rfl
    (collectScores_cons v212112201 (collectScores_cons v202112211 collectScores_nil)) rfl

theorem v202112021 : readBoardAux P2 4 (⟨N2, N0, N2, N1, N1, N2, N0, N2, N1⟩ : Grid) P1 = some (Z0, some M01) :=
  readBoardAux_step P2 3 (⟨N2, N0, N2, N1, N1, N2, N0, N2, N1⟩ : Grid) P1 [M01, M20] rfl rfl
    (collectScores_cons v212112021 (collectScores_cons v202112121 collectScores_nil)) rfl

theorem v202112001 : readBoardAux P2 5 (⟨N2, N0, N2, N1, N1, N2, N0, N0, N1⟩ : Grid) P2 = some (ZP, some M01) :=
  readBoardAux_step P2 4 (⟨N2, N0, N2, N1, N1, N2, N0, N0, N1⟩ : Grid) P2 [M01, M20, M21] rfl rfl
    (collectScores_cons t222112001 (collectScores_cons v202112201 (collectScores_cons v202112021 collectScores_nil))) rfl

theorem v202112000 : readBoardAux P2 6 (⟨N2, N0, N2, N1, N1, N2, N0, N0, N0⟩ : Grid) P1 = some (ZP, some M01) :=
  readBoardAux_step P2 5 (⟨N2, N0, N2, N1, N1, N2, N0, N0, N0⟩ : Grid) P1 [M01, M20, M21, M22] rfl rfl
    (collectScores_cons v212112000 (collectScores_cons v202112100 (collectScores_cons v202112010 (collectScores_cons v202112001 collectScores_nil)))) rfl

theorem t202111200 : readBoardAux P2 5 (⟨N2, N0, N2, N1, N1, N1, N2, N0, N0⟩ : Grid) P2 = some (ZM, none) :=
  rfl

theorem t202111212 : readBoardAux P2 3 (⟨N2, N0, N2, N1, N1, N1, N2, N1, N2⟩ : Grid) P2 = some (ZM, none) :=
  rfl

theorem v202110212 : readBoardAux P2 4 (⟨N2, N0, N2, N1, N1, N0, N2, N1, N2⟩ : Grid) P1 = some (ZM, some M01) :=
  readBoardAux_step P2 3 (⟨N2, N0, N2, N1, N1, N0, N2, N1, N2⟩ : Grid) P1 [M01, M12] rfl rfl
    (collectScores_cons t212110212 (collectScores_cons t202111212 collectScores_nil)) rfl

theorem v202110210 : readBoardAux P2 5 (⟨N2, N0, N2, N1, N1, N0, N2, N1, N0⟩ : Grid) P2 = some (ZP, some M01) :=
  readBoardAux_step P2 4 (⟨N2, N0, N2, N1, N1, N0, N2, N1, N0⟩ : Grid) P2 [M01, M12, M22] rfl rfl
    (collectScores_cons t222110210 (collectScores_cons v202112210 (collectScores_cons v202110212 collectScores_nil))) rfl

theorem t202111221 : readBoardAux P2 3 (⟨N2, N0, N2, N1, N1, N1, N2, N2, N1⟩ : Grid) P2 = some (ZM, none) :=
  rfl

theorem v202110221 : readBoardAux P2 4 (⟨N2, N0, N2, N1, N1, N0, N2, N2, N1⟩ : Grid) P1 = some (ZM, some M12) :=
  readBoardAux_step P2 3 (⟨N2, N0, N2, N1, N1, N0, N2, N2, N1⟩ : Grid) P1 [M01, M12] rfl rfl
    (collectScores_cons v212110221 (collectScores_cons t202111221 collectScores_nil)) rfl

theorem v202110201 : readBoardAux P2 5 (⟨N2, N0, N2, N1, N1, N0, N2, N0, N1⟩ : Grid) P2 = some (ZP, some M01) :=
  readBoardAux_step P2 4 (⟨N2, N0, N2, N1, N1, N0, N2, N0, N1⟩ : Grid) P2 [M01, M12, M21] rfl rfl
    (collectScores_cons t222110201 (collectScores_cons v202112201 (collectScores_cons v202110221 collectScores_nil))) rfl

theorem v202110200 : readBoardAux P2 6 (⟨N2, N0, N2, N1, N1, N0, N2, N0, N0⟩ : Grid) P1 = some (ZM, some M01) :=
  readBoardAux_step P2 5 (⟨N2, N0, N2, N1, N1, N0, N2, N0, N0⟩ : Grid) P1 [M01, M12, M21, M22] rfl rfl
    (collectScores_cons v212110200 (collectScores_cons t202111200 (collectScores_cons v202110210 (collectScores_cons v202110201 collectScores_nil)))) rfl

theorem t202111020 : readBoardAux P2 5 (⟨N2, N0, N2, N1, N1, N1, N0, N2, N0⟩ : Grid) P2 = some (ZM, none) :=
  rfl

theorem t202111122 : readBoardAux P2 3 (⟨N2, N0, N2, N1, N1, N1, N1, N2, N2⟩ : Grid) P2 = some (ZM, none) :=
  rfl

theorem v202110122 : readBoardAux P2 4 (⟨N2, N0, N2, N1, N1, N0, N1, N2, N2⟩ : Grid) P1 = some (ZM, some M12) :=
  readBoardAux_step P2 3 (⟨N2, N0, N2, N1, N1, N0, N1, N2, N2⟩ : Grid) P1 [M01, M12] rfl rfl
    (collectScores_cons v212110122 (collectScores_cons t202111122 collectScores_nil)) rfl

theorem v202110120 : readBoardAux P2 5 (⟨N2, N0, N2, N1, N1, N0, N1, N2, N0⟩ : Grid) P2 = some (ZP, some M01) :=
  readBoardAux_step P2 4 (⟨N2, N0, N2, N1, N1, N0, N1, N2, N0⟩ : Grid) P2 [M01, M12, M22] rfl rfl
    (collectScores_cons t222110120 (collectScores_cons v202112120 (collectScores_cons v202110122 collectScores_nil))) rfl

theorem v202110021 : readBoardAux P2 5 (⟨N2, N0, N2, N1, N1, N0, N0, N2, N1⟩ : Grid) P2 = some (ZP, some M01) :=
  readBoardAux_step P2 4 (⟨N2, N0, N2, N1, N1, N0, N0, N2, N1⟩ : Grid) P2 [M01, M12, M20] rfl rfl
    (collectScores_cons t222110021 (collectScores_cons v202112021 (collectScores_cons v202110221 collectScores_nil))) rfl

theorem v202110020 : readBoardAux P2 6 (⟨N2, N0, N2, N1, N1, N0, N0, N2, N0⟩ : Grid) P1 = some (ZM, some M12) :=
  readBoardAux_step P2 5 (⟨N2, N0, N2, N1, N1, N0, N0, N2, N0⟩ : Grid) P1 [M01, M12, M20, M22] rfl rfl
    (collectScores_cons v212110020 (collectScores_cons t202111020 (collectScores_cons v202110120 (collectScores_cons v202110021 collectScores_nil)))) rfl

theorem t202111002 : readBoardAux P2 5 (⟨N2, N0, N2, N1, N1, N1, N0, N0, N2⟩ : Grid) P2 = some (ZM, none) :=
  rfl

theorem v202110102 : readBoardAux P2 5 (⟨N2, N0, N2, N1, N1, N0, N1, N0, N2⟩ : Grid) P2 = some (ZP, some M01) :=
  readBoardAux_step P2 4 (⟨N2, N0, N2, N1, N1, N0, N1, N0, N2⟩ : Grid) P2 [M01, M12, M21] rfl rfl
    (collectScores_cons t222110102 (collectScores_cons t202112102 (collectScores_cons v202110122 collectScores_nil))) rfl

theorem v202110012 : readBoardAux P2 5 (⟨N2, N0, N2, N1, N1, N0, N0, N1, N2⟩ : Grid) P2 = some (ZP, some M01) :=
  readBoardAux_step P2 4 (⟨N2, N0, N2, N1, N1, N0, N0, N1, N2⟩ : Grid) P2 [M01, M12, M20] rfl rfl
    (collectScores_cons t222110012 (collectScores_cons t202112012 (collectScores_cons v202110212 collectScores_nil))) rfl

theorem v202110002 : readBoardAux P2 6 (⟨N2, N0, N2, N1, N1, N0, N0, N0, N2⟩ : Grid) P1 = some (ZM, some M12) :=
  readBoardAux_step P2 5 (⟨N2, N0, N2, N1, N1, N0, N0, N0, N2⟩ : Grid) P1 [M01, M12, M20, M21] rfl rfl
    (collectScores_cons v212110002 (collectScores_cons t202111002 (collectScores_cons v202110102 (collectScores_cons v202110012 collectScores_nil)))) rfl

theorem v202110000 : readBoardAux P2 7 (⟨N2, N0, N2, N1, N1, N0, N0, N0, N0⟩ : Grid) P2 = some (ZP, some M01) :=
  readBoardAux_step P2 6 (⟨N2, N0, N2, N1, N1, N0, N0, N0, N0⟩ : Grid) P2 [M01, M12, M20, M21, M22] rfl rfl
    (collectScores_cons t222110000 (collectScores_cons v202112000 (collectScores_cons v202110200 (collectScores_cons v202110020 (collectScores_cons v202110002 collectScores_nil))))) rfl

theorem t222121121 : readBoardAux P2 2 (⟨N2, N2, N2, N1, N2, N1, N1, N2, N1⟩ : Grid) P1 = some (ZP, none) :=
  rfl

theorem v202121121 : readBoardAux P2 3 (⟨N2, N0, N2, N1, N2, N1, N1, N2, N1⟩ : Grid) P2 = some (ZP, some M01) :=
  readBoardAux_step P2 2 (⟨N2, N0, N2, N1, N2, N1, N1, N2, N1⟩ : Grid) P2 [M01] rfl rfl
    (collectScores_cons t222121121 collectScores_nil) rfl

theorem v202121120 : readBoardAux P2 4 (⟨N2, N0, N2, N1, N2, N1, N1, N2, N0⟩ : Grid) P1 = some (ZP, some M01) :=
  readBoardAux_step P2 3 (⟨N2, N0, N2, N1, N2, N1, N1, N2, N0⟩ : Grid) P1 [M01, M22] rfl rfl
    (collectScores_cons v212121120 (collectScores_cons v202121121 collectScores_nil)) rfl

theorem t202121102 : readBoardAux P2 4 (⟨N2, N0, N2, N1, N2, N1, N1, N0, N2⟩ : Grid) P1 = some (ZP, none) :=
  rfl

theorem v202121100 : readBoardAux P2 5 (⟨N2, N0, N2, N1, N2, N1, N1, N0, N0⟩ : Grid) P2 = some (ZP, some M01) :=
  readBoardAux_step P2 4 (⟨N2, N0, N2, N1, N2, N1, N1, N0, N0⟩ : Grid) P2 [M01, M21, M22] rfl rfl
    (collectScores_cons t222121100 (collectScores_cons v202121120 (collectScores_cons t202121102 collectScores_nil))) rfl

theorem t202121210 : readBoardAux P2 4 (⟨N2, N0, N2, N1, N2, N1, N2, N1, N0⟩ : Grid) P1 = some (ZP, none) :=
  rfl

theorem t202121012 : readBoardAux P2 4 (⟨N2, N0, N2, N1, N2, N1, N0, N1, N2⟩ : Grid) P1 = some (ZP, none) :=
  rfl

theorem v202121010 : readBoardAux P2 5 (⟨N2, N0, N2, N1, N2, N1, N0, N1, N0⟩ : Grid) P2 = some (ZP, some M01) :=
  readBoardAux_step P2 4 (⟨N2, N0, N2, N1, N2, N1, N0, N1, N0⟩ : Grid) P2 [M01, M20, M22] rfl rfl
    (collectScores_cons t222121010 (collectScores_cons t202121210 (collectScores_cons t202121012 collectScores_nil))) rfl

theorem t202121201 : readBoardAux P2 4 (⟨N2, N0, N2, N1, N2, N1, N2, N0, N1⟩ : Grid) P1 = some (ZP, none) :=
  rfl

theorem v202121021 : readBoardAux P2 4 (⟨N2, N0, N2, N1, N2, N1, N0, N2, N1⟩ : Grid) P1 = some (ZP, some M01) :=
  readBoardAux_step P2 3 (⟨N2, N0, N2, N1, N2, N1, N0, N2, N1⟩ : Grid) P1 [M01, M20] rfl rfl
    (collectScores_cons v212121021 (collectScores_cons v202121121 collectScores_nil)) rfl

theorem v202121001 : readBoardAux P2 5 (⟨N2, N0, N2, N1, N2, N1, N0, N0, N1⟩ : Grid) P2 = some (ZP, some M01) :=
  readBoardAux_step P2 4 (⟨N2, N0, N2, N1, N2, N1, N0, N0, N1⟩ : Grid) P2 [M01, M20, M21] rfl rfl
    (collectScores_cons t222121001 (collectScores_cons t202121201 (collectScores_cons v202121021 collectScores_nil))) rfl

theorem v202121000 : readBoardAux P2 6 (⟨N2, N0, N2, N1, N2, N1, N0, N0, N0⟩ : Grid) P1 = some (ZP, some M01) :=
  readBoardAux_step P2 5 (⟨N2, N0, N2, N1, N2, N1, N0, N0, N0⟩ : Grid) P1 [M01, M20, M21, M22] rfl rfl
    (collectScores_cons v212121000 (collectScores_cons v202121100 (collectScores_cons v202121010 (collectScores_cons v202121001 collectScores_nil)))) rfl

theorem v202101212 : readBoardAux P2 4 (⟨N2, N0, N2, N1, N0, N1, N2, N1, N2⟩ : Grid) P1 = some (ZM, some M11) :=
  readBoardAux_step P2 3 (⟨N2, N0, N2, N1, N0, N1, N2, N1, N2⟩ : Grid) P1 [M01, M11] rfl rfl
    (collectScores_cons v212101212 (collectScores_cons t202111212 collectScores_nil)) rfl

theorem v202101210 : readBoardAux P2 5 (⟨N2, N0, N2, N1, N0, N1, N2, N1, N0⟩ : Grid) P2 = some (ZP, some M01) :=
  readBoardAux_step P2 4 (⟨N2, N0, N2, N1, N0, N1, N2, N1, N0⟩ : Grid) P2 [M01, M11, M22] rfl rfl
    (collectScores_cons t222101210 (collectScores_cons t202121210 (collectScores_cons v202101212 collectScores_nil))) rfl

theorem v202101221 : readBoardAux P2 4 (⟨N2, N0, N2, N1, N0, N1, N2, N2, N1⟩ : Grid) P1 = some (ZM, some M11) :=
  readBoardAux_step P2 3 (⟨N2, N0, N2, N1, N0, N1, N2, N2, N1⟩ : Grid) P1 [M01, M11] rfl rfl
    (collectScores_cons v212101221 (collectScores_cons t202111221 collectScores_nil)) rfl

theorem v202101201 : readBoardAux P2 5 (⟨N2, N0, N2, N1, N0, N1, N2, N0, N1⟩ : Grid) P2 = some (ZP, some M01) :=
  readBoardAux_step P2 4 (⟨N2, N0, N2, N1, N0, N1, N2, N0, N1⟩ : Grid) P2 [M01, M11, M21] rfl rfl
    (collectScores_cons t222101201 (collectScores_cons t202121201 (collectScores_cons v202101221 collectScores_nil))) rfl

theorem v202101200 : readBoardAux P2 6 (⟨N2, N0, N2, N1, N0, N1, N2, N0, N0⟩ : Grid) P1 = some (ZM, some M11) :=
  readBoardAux_step P2 5 (⟨N2, N0, N2, N1, N0, N1, N2, N0, N0⟩ : Grid) P1 [M01, M11, M21, M22] rfl rfl
    (collectScores_cons v212101200 (collectScores_cons t202111200 (collectScores_cons v202101210 (collectScores_cons v202101201 collectScores_nil)))) rfl

theorem v202101122 : readBoardAux P2 4 (⟨N2, N0, N2, N1, N0, N1, N1, N2, N2⟩ : Grid) P1 = some (ZM, some M11) :=
  readBoardAux_step P2 3 (⟨N2, N0, N2, N1, N0, N1, N1, N2, N2⟩ : Grid) P1 [M01, M11] rfl rfl
    (collectScores_cons v212101122 (collectScores_cons t202111122 collectScores_nil)) rfl

theorem v202101120 : readBoardAux P2 5 (⟨N2, N0, N2, N1, N0, N1, N1, N2, N0⟩ : Grid) P2 = some (ZP, some M01) :=
  readBoardAux_step P2 4 (⟨N2, N0, N2, N1, N0, N1, N1, N2, N0⟩ : Grid) P2 [M01, M11, M22] rfl rfl
    (collectScores_cons t222101120 (collectScores_cons v202121120 (collectScores_cons v202101122 collectScores_nil))) rfl

theorem v202101021 : readBoardAux P2 5 (⟨N2, N0, N2, N1, N0, N1, N0, N2, N1⟩ : Grid) P2 = some (ZP, some M01) :=
  readBoardAux_step P2 4 (⟨N2, N0, N2, N1, N0, N1, N0, N2, N1⟩ : Grid) P2 [M01, M11, M20] rfl rfl
    (collectScores_cons t222101021 (collectScores_cons v202121021 (collectScores_cons v202101221 collectScores_nil))) rfl

theorem v202101020 : readBoardAux P2 6 (⟨N2, N0, N2, N1, N0, N1, N0, N2, N0⟩ : Grid) P1 = some (ZM, some M11) :=
  readBoardAux_step P2 5 (⟨N2, N0, N2, N1, N0, N1, N0, N2, N0⟩ : Grid) P1 [M01, M11, M20, M22] rfl rfl
    (collectScores_cons v212101020 (collectScores_cons t202111020 (collectScores_cons v202101120 (collectScores_cons v202101021 collectScores_nil)))) rfl

theorem v202101102 : readBoardAux P2 5 (⟨N2, N0, N2, N1, N0, N1, N1, N0, N2⟩ : Grid) P2 = some (ZP, some M01) :=
  readBoardAux_step P2 4 (⟨N2, N0, N2, N1, N0, N1, N1, N0, N2⟩ : Grid) P2 [M01, M11, M21] rfl rfl
    (collectScores_cons t222101102 (collectScores_cons t202121102 (collectScores_cons v202101122 collectScores_nil))) rfl

theorem v202101012 : readBoardAux P2 5 (⟨N2, N0, N2, N1, N0, N1, N0, N1, N2⟩ : Grid) P2 = some (ZP, some M01) :=
  readBoardAux_step P2 4 (⟨N2, N0, N2, N1, N0, N1, N0, N1, N2⟩ : Grid) P2 [M01, M11, M20] rfl rfl
    (collectScores_cons t222101012 (collectScores_cons t202121012 (collectScores_cons v202101212 collectScores_nil))) rfl

theorem v202101002 : readBoardAux P2 6 (⟨N2, N0, N2, N1, N0, N1, N0, N0, N2⟩ : Grid) P1 = some (ZM, some M11) :=
  readBoardAux_step P2 5 (⟨N2, N0, N2, N1, N0, N1, N0, N0, N2⟩ : Grid) P1 [M01, M11, M20, M21] rfl rfl
    (collectScores_cons v212101002 (collectScores_cons t202111002 (collectScores_cons v202101102 (collectScores_cons v202101012 collectScores_nil)))) rfl

theorem v202101000 : readBoardAux P2 7 (⟨N2, N0, N2, N1, N0, N1, N0, N0, N0⟩ : Grid) P2 = some (ZP, some M01) :=
  readBoardAux_step P2 6 (⟨N2, N0, N2, N1, N0, N1, N0, N0, N0⟩ : Grid) P2 [M01, M11, M20, M21, M22] rfl rfl
    (collectScores_cons t222101000 (collectScores_cons v202121000 (collectScores_cons v202101200 (collectScores_cons v202101020 (collectScores_cons v202101002 collectScores_nil))))) rfl

theorem t202122111 : readBoardAux P2 3 (⟨N2, N0, N2, N1, N2, N2, N1, N1, N1⟩ : Grid) P2 = some (ZM, none) :=
  rfl

theorem v202122110 : readBoardAux P2 4 (⟨N2, N0, N2, N1, N2, N2, N1, N1, N0⟩ : Grid) P1 = some (ZM, some M22) :=
  readBoardAux_step P2 3 (⟨N2, N0, N2, N1, N2, N2, N1, N1, N0⟩ : Grid) P1 [M01, M22] rfl rfl
    (collectScores_cons v212122110 (collectScores_cons t202122111 collectScores_nil)) rfl

theorem t202120112 : readBoardAux P2 4 (⟨N2, N0, N2, N1, N2, N0, N1, N1, N2⟩ : Grid) P1 = some (ZP, none) :=
  rfl

theorem v202120110 : readBoardAux P2 5 (⟨N2, N0, N2, N1, N2, N0, N1, N1, N0⟩ : Grid) P2 = some (ZP, some M01) :=
  readBoardAux_step P2 4 (⟨N2, N0, N2, N1, N2, N0, N1, N1, N0⟩ : Grid) P2 [M01, M12, M22] rfl rfl
    (collectScores_cons t222120110 (collectScores_cons v202122110 (collectScores_cons t202120112 collectScores_nil))) rfl

theorem v202122101 : readBoardAux P2 4 (⟨N2, N0, N2, N1, N2, N2, N1, N0, N1⟩ : Grid) P1 = some (ZM, some M21) :=
  readBoardAux_step P2 3 (⟨N2, N0, N2, N1, N2, N2, N1, N0, N1⟩ : Grid) P1 [M01, M21] rfl rfl
    (collectScores_cons v212122101 (collectScores_cons t202122111 collectScores_nil)) rfl

theorem v202120121 : readBoardAux P2 4 (⟨N2, N0, N2, N1, N2, N0, N1, N2, N1⟩ : Grid) P1 = some (Z0, some M01) :=
  readBoardAux_step P2 3 (⟨N2, N0, N2, N1, N2, N0, N1, N2, N1⟩ : Grid) P1 [M01, M12] rfl rfl
    (collectScores_cons v212120121 (collectScores_cons v202121121 collectScores_nil)) rfl

theorem v202120101 : readBoardAux P2 5 (⟨N2, N0, N2, N1, N2, N0, N1, N0, N1⟩ : Grid) P2 = some (ZP, some M01) :=
  readBoardAux_step P2 4 (⟨N2, N0, N2, N1, N2, N0, N1, N0, N1⟩ : Grid) P2 [M01, M12, M21] rfl rfl
    (collectScores_cons t222120101 (collectScores_cons v202122101 (collectScores_cons v202120121 collectScores_nil))) rfl

theorem v202120100 : readBoardAux P2 6 (⟨N2, N0, N2, N1, N2, N0, N1, N0, N0⟩ : Grid) P1 = some (ZP, some M01) :=
  readBoardAux_step P2 5 (⟨N2, N0, N2, N1, N2, N0, N1, N0, N0⟩ : Grid) P1 [M01, M12, M21, M22] rfl rfl
    (collectScores_cons v212120100 (collectScores_cons v202121100 (collectScores_cons v202120110 (collectScores_cons v202120101 collectScores_nil)))) rfl

theorem t202102112 : readBoardAux P2 4 (⟨N2, N0, N2, N1, N0, N2, N1, N1, N2⟩ : Grid) P1 = some (ZP, none) :=
  rfl

theorem v202102110 : readBoardAux P2 5 (⟨N2, N0, N2, N1, N0, N2, N1, N1, N0⟩ : Grid) P2 = some (ZP, some M01) :=
  readBoardAux_step P2 4 (⟨N2, N0, N2, N1, N0, N2, N1, N1, N0⟩ : Grid) P2 [M01, M11, M22] rfl rfl
    (collectScores_cons t222102110 (collectScores_cons v202122110 (collectScores_cons t202102112 collectScores_nil))) rfl

theorem v202102121 : readBoardAux P2 4 (⟨N2, N0, N2, N1, N0, N2, N1, N2, N1⟩ : Grid) P1 = some (Z0, some M01) :=
  readBoardAux_step P2 3 (⟨N2, N0, N2, N1, N0, N2, N1, N2, N1⟩ : Grid) P1 [M01, M11] rfl rfl
    (collectScores_cons v212102121 (collectScores_cons v202112121 collectScores_nil)) rfl

theorem v202102101 : readBoardAux P2 5 (⟨N2, N0, N2, N1, N0, N2, N1, N0, N1⟩ : Grid) P2 = some (ZP, some M01) :=
  readBoardAux_step P2 4 (⟨N2, N0, N2, N1, N0, N2, N1, N0, N1⟩ : Grid) P2 [M01, M11, M21] rfl rfl
    (collectScores_cons t222102101 (collectScores_cons v202122101 (collectScores_cons v202102121 collectScores_nil))) rfl

theorem v202102100 : readBoardAux P2 6 (⟨N2, N0, N2, N1, N0, N2, N1, N0, N0⟩ : Grid) P1 = some (ZP, some M01) :=
  readBoardAux_step P2 5 (⟨N2, N0, N2, N1, N0, N2, N1, N0, N0⟩ : Grid) P1 [M01, M11, M21, M22] rfl rfl
    (collectScores_cons v212102100 (collectScores_cons v202112100 (collectScores_cons v202102110 (collectScores_cons v202102101 collectScores_nil)))) rfl

theorem v202100121 : readBoardAux P2 5 (⟨N2, N0, N2, N1, N0, N0, N1, N2, N1⟩ : Grid) P2 = some (ZP, some M01) :=
  readBoardAux_step P2 4 (⟨N2, N0, N2, N1, N0, N0, N1, N2, N1⟩ : Grid) P2 [M01, M11, M12] rfl rfl
    (collectScores_cons t222100121 (collectScores_cons v202120121 (collectScores_cons v202102121 collectScores_nil))) rfl

theorem v202100120 : readBoardAux P2 6 (⟨N2, N0, N2, N1, N0, N0, N1, N2, N0⟩ : Grid) P1 = some (ZP, some M01) :=
  readBoardAux_step P2 5 (⟨N2, N0, N2, N1, N0, N0, N1, N2, N0⟩ : Grid) P1 [M01, M11, M12, M22] rfl rfl
    (collectScores_cons v212100120 (collectScores_cons v202110120 (collectScores_cons v202101120 (collectScores_cons v202100121 collectScores_nil)))) rfl

theorem v202100112 : readBoardAux P2 5 (⟨N2, N0, N2, N1, N0, N0, N1, N1, N2⟩ : Grid) P2 = some (ZP, some M01) :=
  readBoardAux_step P2 4 (⟨N2, N0, N2, N1, N0, N0, N1, N1, N2⟩ : Grid) P2 [M01, M11, M12] rfl rfl
    (collectScores_cons t222100112 (collectScores_cons t202120112 (collectScores_cons t202102112 collectScores_nil))) rfl

theorem v202100102 : readBoardAux P2 6 (⟨N2, N0, N2, N1, N0, N0, N1, N0, N2⟩ : Grid) P1 = some (ZP, some M01) :=
  readBoardAux_step P2 5 (⟨N2, N0, N2, N1, N0, N0, N1, N0, N2⟩ : Grid) P1 [M01, M11, M12, M21] rfl rfl
    (collectScores_cons v212100102 (collectScores_cons v202110102 (collectScores_cons v202101102 (collectScores_cons v202100112 collectScores_nil)))) rfl

theorem v202100100 : readBoardAux P2 7 (⟨N2, N0, N2, N1, N0, N0, N1, N0, N0⟩ : Grid) P2 = some (ZP, some M01) :=
  readBoardAux_step P2 6 (⟨N2, N0, N2, N1, N0, N0, N1, N0, N0⟩ : Grid) P2 [M01, M11, M12, M21, M22] rfl rfl
    (collectScores_cons t222100100 (collectScores_cons v202120100 (collectScores_cons v202102100 (collectScores_cons v202100120 (collectScores_cons v202100102 collectScores_nil))))) rfl

theorem v202122011 : readBoardAux P2 4 (⟨N2, N0, N2, N1, N2, N2, N0, N1, N1⟩ : Grid) P1 = some (ZM, some M20) :=
  readBoardAux_step P2 3 (⟨N2, N0, N2, N1, N2, N2, N0, N1, N1⟩ : Grid) P1 [M01, M20] rfl rfl
    (collectScores_cons v212122011 (collectScores_cons t202122111 collectScores_nil)) rfl

theorem t202120211 : readBoardAux P2 4 (⟨N2, N0, N2, N1, N2, N0, N2, N1, N1⟩ : Grid) P1 = some (ZP, none) :=
  rfl

theorem v202120011 : readBoardAux P2 5 (⟨N2, N0, N2, N1, N2, N0, N0, N1, N1⟩ : Grid) P2 = some (ZP, some M01) :=
  readBoardAux_step P2 4 (⟨N2, N0, N2, N1, N2, N0, N0, N1, N1⟩ : Grid) P2 [M01, M12, M20] rfl rfl
    (collectScores_cons t222120011 (collectScores_cons v202122011 (collectScores_cons t202120211 collectScores_nil))) rfl

theorem v202120010 : readBoardAux P2 6 (⟨N2, N0, N2, N1, N2, N0, N0, N1, N0⟩ : Grid) P1 = some (ZP, some M01) :=
  readBoardAux_step P2 5 (⟨N2, N0, N2, N1, N2, N0, N0, N1, N0⟩ : Grid) P1 [M01, M12, M20, M22] rfl rfl
    (collectScores_cons v212120010 (collectScores_cons v202121010 (collectScores_cons v202120110 (collectScores_cons v202120011 collectScores_nil)))) rfl

theorem v202102211 : readBoardAux P2 4 (⟨N2, N0, N2, N1, N0, N2, N2, N1, N1⟩ : Grid) P1 = some (ZP, some M01) :=
  readBoardAux_step P2 3 (⟨N2, N0, N2, N1, N0, N2, N2, N1, N1⟩ : Grid) P1 [M01, M11] rfl rfl
    (collectScores_cons v212102211 (collectScores_cons v202112211 collectScores_nil)) rfl

theorem v202102011 : readBoardAux P2 5 (⟨N2, N0, N2, N1, N0, N2, N0, N1, N1⟩ : Grid) P2 = some (ZP, some M01) :=
  readBoardAux_step P2 4 (⟨N2, N0, N2, N1, N0, N2, N0, N1, N1⟩ : Grid) P2 [M01, M11, M20] rfl rfl
    (collectScores_cons t222102011 (collectScores_cons v202122011 (collectScores_cons v202102211 collectScores_nil))) rfl

theorem v202102010 : readBoardAux P2 6 (⟨N2, N0, N2, N1, N0, N2, N0, N1, N0⟩ : Grid) P1 = some (ZP, some M01) :=
  readBoardAux_step P2 5 (⟨N2, N0, N2, N1, N0, N2, N0, N1, N0⟩ : Grid) P1 [M01, M11, M20, M22] rfl rfl
    (collectScores_cons v212102010 (collectScores_cons v202112010 (collectScores_cons v202102110 (collectScores_cons v202102011 collectScores_nil)))) rfl

theorem v202100211 : readBoardAux P2 5 (⟨N2, N0, N2, N1, N0, N0, N2, N1, N1⟩ : Grid) P2 = some (ZP, some M01) :=
  readBoardAux_step P2 4 (⟨N2, N0, N2, N1, N0, N0, N2, N1, N1⟩ : Grid) P2 [M01, M11, M12] rfl rfl
    (collectScores_cons t222100211 (collectScores_cons t202120211 (collectScores_cons v202102211 collectScores_nil))) rfl

theorem v202100210 : readBoardAux P2 6 (⟨N2, N0, N2, N1, N0, N0, N2, N1, N0⟩ : Grid) P1 = some (ZP, some M01) :=
  readBoardAux_step P2 5 (⟨N2, N0, N2, N1, N0, N0, N2, N1, N0⟩ : Grid) P1 [M01, M11, M12, M22] rfl rfl
    (collectScores_cons v212100210 (collectScores_cons v202110210 (collectScores_cons v202101210 (collectScores_cons v202100211 collectScores_nil)))) rfl

theorem v202100012 : readBoardAux P2 6 (⟨N2, N0, N2, N1, N0, N0, N0, N1, N2⟩ : Grid) P1 = some (ZP, some M01) :=
  readBoardAux_step P2 5 (⟨N2, N0, N2, N1, N0, N0, N0, N1, N2⟩ : Grid) P1 [M01, M11, M12, M20] rfl rfl
    (collectScores_cons v212100012 (collectScores_cons v202110012 (collectScores_cons v202101012 (collectScores_cons v202100112 collectScores_nil)))) rfl

theorem v202100010 : readBoardAux P2 7 (⟨N2, N0, N2, N1, N0, N0, N0, N1, N0⟩ : Grid) P2 = some (ZP, some M01) :=
  readBoardAux_step P2 6 (⟨N2, N0, N2, N1, N0, N0, N0, N1, N0⟩ : Grid) P2 [M01, M11, M12, M20, M22] rfl rfl
    (collectScores_cons t222100010 (collectScores_cons v202120010 (collectScores_cons v202102010 (collectScores_cons v202100210 (collectScores_cons v202100012 collectScores_nil))))) rfl

theorem v202120001 : readBoardAux P2 6 (⟨N2, N0, N2, N1, N2, N0, N0, N0, N1⟩ : Grid) P1 = some (ZP, some M01) :=
  readBoardAux_step P2 5 (⟨N2, N0, N2, N1, N2, N0, N0, N0, N1⟩ : Grid) P1 [M01, M12, M20, M21] rfl rfl
    (collectScores_cons v212120001 (collectScores_cons v202121001 (collectScores_cons v202120101 (collectScores_cons v202120011 collectScores_nil)))) rfl

theorem v202102001 : readBoardAux P2 6 (⟨N2, N0, N2, N1, N0, N2, N0, N0, N1⟩ : Grid) P1 = some (Z0, some M01) :=
  readBoardAux_step P2 5 (⟨N2, N0, N2, N1, N0, N2, N0, N0, N1⟩ : Grid) P1 [M01, M11, M20, M21] rfl rfl
    (collectScores_cons v212102001 (collectScores_cons v202112001 (collectScores_cons v202102101 (collectScores_cons v202102011 collectScores_nil)))) rfl

theorem v202100201 : readBoardAux P2 6 (⟨N2, N0, N2, N1, N0, N0, N2, N0, N1⟩ : Grid) P1 = some (ZP, some M01) :=
  readBoardAux_step P2 5 (⟨N2, N0, N2, N1, N0, N0, N2, N0, N1⟩ : Grid) P1 [M01, M11, M12, M21] rfl rfl
    (collectScores_cons v212100201 (collectScores_cons v202110201 (collectScores_cons v202101201 (collectScores_cons v202100211 collectScores_nil)))) rfl

theorem v202100021 : readBoardAux P2 6 (⟨N2, N0, N2, N1, N0, N0, N0, N2, N1⟩ : Grid) P1 = some (Z0, some M01) :=
  readBoardAux_step P2 5 (⟨N2, N0, N2, N1, N0, N0, N0, N2, N1⟩ : Grid) P1 [M01, M11, M12, M20] rfl rfl
    (collectScores_cons v212100021 (collectScores_cons v202110021 (collectScores_cons v202101021 (collectScores_cons v202100121 collectScores_nil)))) rfl

theorem v202100001 : readBoardAux P2 7 (⟨N2, N0, N2, N1, N0, N0, N0, N0, N1⟩ : Grid) P2 = some (ZP, some M01) :=
  readBoardAux_step P2 6 (⟨N2, N0, N2, N1, N0, N0, N0, N0, N1⟩ : Grid) P2 [M01, M11, M12, M20, M21] rfl rfl
    (collectScores_cons t222100001 (collectScores_cons v202120001 (collectScores_cons v202102001 (collectScores_cons v202100201 (collectScores_cons v202100021 collectScores_nil))))) rfl

theorem v202100000 : readBoardAux P2 8 (⟨N2, N0, N2, N1, N0, N0, N0, N0, N0⟩ : Grid) P1 = some (ZP, some M01) :=
  readBoardAux_step P2 7 (⟨N2, N0, N2, N1, N0, N0, N0, N0, N0⟩ : Grid) P1 [M01, M11, M12, M20, M21, M22] rfl rfl
    (collectScores_cons v212100000 (collectScores_cons v202110000 (collectScores_cons v202101000 (collectScores_cons v202100100 (collectScores_cons v202100010 (collectScores_cons v202100001 collectScores_nil)))))) rfl

theorem t200121212 : readBoardAux P2 4 (⟨N2, N0, N0, N1, N2, N1, N2, N1, N2⟩ : Grid) P1 = some (ZP, none) :=
  rfl

theorem v200121210 : readBoardAux P2 5 (⟨N2, N0, N0, N1, N2, N1, N2, N1, N0⟩ : Grid) P2 = some (ZP, some M01) :=
  readBoardAux_step P2 4 (⟨N2, N0, N0, N1, N2, N1, N2, N1, N0⟩ : Grid) P2 [M01, M02, M22] rfl rfl
    (collectScores_cons v220121210 (collectScores_cons t202121210 (collectScores_cons t200121212 collectScores_nil))) rfl

theorem v200121221 : readBoardAux P2 4 (⟨N2, N0, N0, N1, N2, N1, N2, N2, N1⟩ : Grid) P1 = some (ZM, some M02) :=
  readBoardAux_step P2 3 (⟨N2, N0, N0, N1, N2, N1, N2, N2, N1⟩ : Grid) P1 [M01, M02] rfl rfl
    (collectScores_cons v210121221 (collectScores_cons t201121221 collectScores_nil)) rfl

theorem v200121201 : readBoardAux P2 5 (⟨N2, N0, N0, N1, N2, N1, N2, N0, N1⟩ : Grid) P2 = some (ZP, some M02) :=
  readBoardAux_step P2 4 (⟨N2, N0, N0, N1, N2, N1, N2, N0, N1⟩ : Grid) P2 [M01, M02, M21] rfl rfl
    (collectScores_cons v220121201 (collectScores_cons t202121201 (collectScores_cons v200121221 collectScores_nil))) rfl

theorem v200121200 : readBoardAux P2 6 (⟨N2, N0, N0, N1, N2, N1, N2, N0, N0⟩ : Grid) P1 = some (ZP, some M01) :=
  readBoardAux_step P2 5 (⟨N2, N0, N0, N1, N2, N1, N2, N0, N0⟩ : Grid) P1 [M01, M02, M21, M22] rfl rfl
    (collectScores_cons v210121200 (collectScores_cons v201121200 (collectScores_cons v200121210 (collectScores_cons v200121201 collectScores_nil)))) rfl

theorem t200121122 : readBoardAux P2 4 (⟨N2, N0, N0, N1, N2, N1, N1, N2, N2⟩ : Grid) P1 = some (ZP, none) :=
  rfl

theorem v200121120 : readBoardAux P2 5 (⟨N2, N0, N0, N1, N2, N1, N1, N2, N0⟩ : Grid) P2 = some (ZP, some M01) :=
  readBoardAux_step P2 4 (⟨N2, N0, N0, N1, N2, N1, N1, N2, N0⟩ : Grid) P2 [M01, M02, M22] rfl rfl
    (collectScores_cons t220121120 (collectScores_cons v202121120 (collectScores_cons t200121122 collectScores_nil))) rfl

theorem v200121021 : readBoardAux P2 5 (⟨N2, N0, N0, N1, N2, N1, N0, N2, N1⟩ : Grid) P2 = some (ZP, some M01) :=
  readBoardAux_step P2 4 (⟨N2, N0, N0, N1, N2, N1, N0, N2, N1⟩ : Grid) P2 [M01, M02, M20] rfl rfl
    (collectScores_cons t220121021 (collectScores_cons v202121021 (collectScores_cons v200121221 collectScores_nil))) rfl

theorem v200121020 : readBoardAux P2 6 (⟨N2, N0, N0, N1, N2, N1, N0, N2, N0⟩ : Grid) P1 = some (ZP, some M01) :=
  readBoardAux_step P2 5 (⟨N2, N0, N0, N1, N2, N1, N0, N2, N0⟩ : Grid) P1 [M01, M02, M20, M22] rfl rfl
    (collectScores_cons v210121020 (collectScores_cons v201121020 (collectScores_cons v200121120 (collectScores_cons v200121021 collectScores_nil)))) rfl

theorem t200121002 : readBoardAux P2 6 (⟨N2, N0, N0, N1, N2, N1, N0, N0, N2⟩ : Grid) P1 = some (ZP, none) :=
  rfl

theorem v200121000 : readBoardAux P2 7 (⟨N2, N0, N0, N1, N2, N1, N0, N0, N0⟩ : Grid) P2 = some (ZP, some M01) :=
  readBoardAux_step P2 6 (⟨N2, N0, N0, N1, N2, N1, N0, N0, N0⟩ : Grid) P2 [M01, M02, M20, M21, M22] rfl rfl
    (collectScores_cons v220121000 (collectScores_cons v202121000 (collectScores_cons v200121200 (collectScores_cons v200121020 (collectScores_cons t200121002 collectScores_nil))))) rfl

theorem t200122112 : readBoardAux P2 4 (⟨N2, N0, N0, N1, N2, N2, N1, N1, N2⟩ : Grid) P1 = some (ZP, none) :=
  rfl

theorem v200122110 : readBoardAux P2 5 (⟨N2, N0, N0, N1, N2, N2, N1, N1, N0⟩ : Grid) P2 = some (ZP, some M22) :=
  readBoardAux_step P2 4 (⟨N2, N0, N0, N1, N2, N2, N1, N1, N0⟩ : Grid) P2 [M01, M02, M22] rfl rfl
    (collectScores_cons v220122110 (collectScores_cons v202122110 (collectScores_cons t200122112 collectScores_nil))) rfl

theorem v200122121 : readBoardAux P2 4 (⟨N2, N0, N0, N1, N2, N2, N1, N2, N1⟩ : Grid) P1 = some (Z0, some M01) :=
  readBoardAux_step P2 3 (⟨N2, N0, N0, N1, N2, N2, N1, N2, N1⟩ : Grid) P1 [M01, M02] rfl rfl
    (collectScores_cons v210122121 (collectScores_cons v201122121 collectScores_nil)) rfl

theorem v200122101 : readBoardAux P2 5 (⟨N2, N0, N0, N1, N2, N2, N1, N0, N1⟩ : Grid) P2 = some (Z0, some M21) :=
  readBoardAux_step P2 4 (⟨N2, N0, N0, N1, N2, N2, N1, N0, N1⟩ : Grid) P2 [M01, M02, M21] rfl rfl
    (collectScores_cons v220122101 (collectScores_cons v202122101 (collectScores_cons v200122121 collectScores_nil))) rfl

theorem v200122100 : readBoardAux P2 6 (⟨N2, N0, N0, N1, N2, N2, N1, N0, N0⟩ : Grid) P1 = some (Z0, some M22) :=
  readBoardAux_step P2 5 (⟨N2, N0, N0, N1, N2, N2, N1, N0, N0⟩ : Grid) P1 [M01, M02, M21, M22] rfl rfl
    (collectScores_cons v210122100 (collectScores_cons v201122100 (collectScores_cons v200122110 (collectScores_cons v200122101 collectScores_nil)))) rfl

theorem v200120121 : readBoardAux P2 5 (⟨N2, N0, N0, N1, N2, N0, N1, N2, N1⟩ : Grid) P2 = some (ZP, some M01) :=
  readBoardAux_step P2 4 (⟨N2, N0, N0, N1, N2, N0, N1, N2, N1⟩ : Grid) P2 [M01, M02, M12] rfl rfl
    (collectScores_cons t220120121 (collectScores_cons v202120121 (collectScores_cons v200122121 collectScores_nil))) rfl

theorem v200120120 : readBoardAux P2 6 (⟨N2, N0, N0, N1, N2, N0, N1, N2, N0⟩ : Grid) P1 = some (ZP, some M01) :=
  readBoardAux_step P2 5 (⟨N2, N0, N0, N1, N2, N0, N1, N2, N0⟩ : Grid) P1 [M01, M02, M12, M22] rfl rfl
    (collectScores_cons v210120120 (collectScores_cons v201120120 (collectScores_cons v200121120 (collectScores_cons v200120121 collectScores_nil)))) rfl

theorem t200120102 : readBoardAux P2 6 (⟨N2, N0, N0, N1, N2, N0, N1, N0, N2⟩ : Grid) P1 = some (ZP, none) :=
  rfl

theorem v200120100 : readBoardAux P2 7 (⟨N2, N0, N0, N1, N2, N0, N1, N0, N0⟩ : Grid) P2 = some (ZP, some M01) :=
  readBoardAux_step P2 6 (⟨N2, N0, N0, N1, N2, N0, N1, N0, N0⟩ : Grid) P2 [M01, M02, M12, M21, M22] rfl rfl
    (collectScores_cons v220120100 (collectScores_cons v202120100 (collectScores_cons v200122100 (collectScores_cons v200120120 (collectScores_cons t200120102 collectScores_nil))))) rfl

theorem v200122211 : readBoardAux P2 4 (⟨N2, N0, N0, N1, N2, N2, N2, N1, N1⟩ : Grid) P1 = some (Z0, some M02) :=
  readBoardAux_step P2 3 (⟨N2, N0, N0, N1, N2, N2, N2, N1, N1⟩ : Grid) P1 [M01, M02] rfl rfl
    (collectScores_cons v210122211 (collectScores_cons v201122211 collectScores_nil)) rfl

theorem v200122011 : readBoardAux P2 5 (⟨N2, N0, N0, N1, N2, N2, N0, N1, N1⟩ : Grid) P2 = some (Z0, some M20) :=
  readBoardAux_step P2 4 (⟨N2, N0, N0, N1, N2, N2, N0, N1, N1⟩ : Grid) P2 [M01, M02, M20] rfl rfl
    (collectScores_cons v220122011 (collectScores_cons v202122011 (collectScores_cons v200122211 collectScores_nil))) rfl

theorem v200122010 : readBoardAux P2 6 (⟨N2, N0, N0, N1, N2, N2, N0, N1, N0⟩ : Grid) P1 = some (Z0, some M22) :=
  readBoardAux_step P2 5 (⟨N2, N0, N0, N1, N2, N2, N0, N1, N0⟩ : Grid) P1 [M01, M02, M20, M22] rfl rfl
    (collectScores_cons v210122010 (collectScores_cons v201122010 (collectScores_cons v200122110 (collectScores_cons v200122011 collectScores_nil)))) rfl

theorem v200120211 : readBoardAux P2 5 (⟨N2, N0, N0, N1, N2, N0, N2, N1, N1⟩ : Grid) P2 = some (ZP, some M02) :=
  readBoardAux_step P2 4 (⟨N2, N0, N0, N1, N2, N0, N2, N1, N1⟩ : Grid) P2 [M01, M02, M12] rfl rfl
    (collectScores_cons v220120211 (collectScores_cons t202120211 (collectScores_cons v200122211 collectScores_nil))) rfl

theorem v200120210 : readBoardAux P2 6 (⟨N2, N0, N0, N1, N2, N0, N2, N1, N0⟩ : Grid) P1 = some (ZP, some M01) :=
  readBoardAux_step P2 5 (⟨N2, N0, N0, N1, N2, N0, N2, N1, N0⟩ : Grid) P1 [M01, M02, M12, M22] rfl rfl
    (collectScores_cons v210120210 (collectScores_cons v201120210 (collectScores_cons v200121210 (collectScores_cons v200120211 collectScores_nil)))) rfl

theorem t200120012 : readBoardAux P2 6 (⟨N2, N0, N0, N1, N2, N0, N0, N1, N2⟩ : Grid) P1 = some (ZP, none) :=
  rfl

theorem v200120010 : readBoardAux P2 7 (⟨N2, N0, N0, N1, N2, N0, N0, N1, N0⟩ : Grid) P2 = some (ZP, some M01) :=
  readBoardAux_step P2 6 (⟨N2, N0, N0, N1, N2, N0, N0, N1, N0⟩ : Grid) P2 [M01, M02, M12, M20, M22] rfl rfl
    (collectScores_cons v220120010 (collectScores_cons v202120010 (collectScores_cons v200122010 (collectScores_cons v200120210 (collectScores_cons t200120012 collectScores_nil))))) rfl

theorem v200122001 : readBoardAux P2 6 (⟨N2, N0, N0, N1, N2, N2, N0, N0, N1⟩ : Grid) P1 = some (Z0, some M01) :=
  readBoardAux_step P2 5 (⟨N2, N0, N0, N1, N2, N2, N0, N0, N1⟩ : Grid) P1 [M01, M02, M20, M21] rfl rfl
    (collectScores_cons v210122001 (collectScores_cons v201122001 (collectScores_cons v200122101 (collectScores_cons v200122011 collectScores_nil)))) rfl

theorem v200120201 : readBoardAux P2 6 (⟨N2, N0, N0, N1, N2, N0, N2, N0, N1⟩ : Grid) P1 = some (Z0, some M02) :=
  readBoardAux_step P2 5 (⟨N2, N0, N0, N1, N2, N0, N2, N0, N1⟩ : Grid) P1 [M01, M02, M12, M21] rfl rfl
    (collectScores_cons v210120201 (collectScores_cons v201120201 (collectScores_cons v200121201 (collectScores_cons v200120211 collectScores_nil)))) rfl

theorem v200120021 : readBoardAux P2 6 (⟨N2, N0, N0, N1, N2, N0, N0, N2, N1⟩ : Grid) P1 = some (Z0, some M01) :=
  readBoardAux_step P2 5 (⟨N2, N0, N0, N1, N2, N0, N0, N2, N1⟩ : Grid) P1 [M01, M02, M12, M20] rfl rfl
    (collectScores_cons v210120021 (collectScores_cons v201120021 (collectScores_cons v200121021 (collectScores_cons v200120121 collectScores_nil)))) rfl

theorem v200120001 : readBoardAux P2 7 (⟨N2, N0, N0, N1, N2, N0, N0, N0, N1⟩ : Grid) P2 = some (ZP, some M01) :=
  readBoardAux_step P2 6 (⟨N2, N0, N0, N1, N2, N0, N0, N0, N1⟩ : Grid) P2 [M01, M02, M12, M20, M21] rfl rfl
    (collectScores_cons v220120001 (collectScores_cons v202120001 (collectScores_cons v200122001 (collectScores_cons v200120201 (collectScores_cons v200120021 collectScores_nil))))) rfl

theorem v200120000 : readBoardAux P2 8 (⟨N2, N0, N0, N1, N2, N0, N0, N0, N0⟩ : Grid) P1 = some (ZP, some M01) :=
  readBoardAux_step P2 7 (⟨N2, N0, N0, N1, N2, N0, N0, N0, N0⟩ : Grid) P1 [M01, M02, M12, M20, M21, M22] rfl rfl
    (collectScores_cons v210120000 (collectScores_cons v201120000 (collectScores_cons v200121000 (collectScores_cons v200120100 (collectScores_cons v200120010 (collectScores_cons v200120001 collectScores_nil)))))) rfl

theorem v200112212 : readBoardAux P2 4 (⟨N2, N0, N0, N1, N1, N2, N2, N1, N2⟩ : Grid) P1 = some (ZM, some M01) :=
  readBoardAux_step P2 3 (⟨N2, N0, N0, N1, N1, N2, N2, N1, N2⟩ : Grid) P1 [M01, M02] rfl rfl
    (collectScores_cons t210112212 (collectScores_cons v201112212 collectScores_nil)) rfl

theorem v200112210 : readBoardAux P2 5 (⟨N2, N0, N0, N1, N1, N2, N2, N1, N0⟩ : Grid) P2 = some (Z0, some M01) :=
  readBoardAux_step P2 4 (⟨N2, N0, N0, N1, N1, N2, N2, N1, N0⟩ : Grid) P2 [M01, M02, M22] rfl rfl
    (collectScores_cons v220112210 (collectScores_cons v202112210 (collectScores_cons v200112212 collectScores_nil))) rfl

theorem v200112221 : readBoardAux P2 4 (⟨N2, N0, N0, N1, N1, N2, N2, N2, N1⟩ : Grid) P1 = some (Z0, some M01) :=
  readBoardAux_step P2 3 (⟨N2, N0, N0, N1, N1, N2, N2, N2, N1⟩ : Grid) P1 [M01, M02] rfl rfl
    (collectScores_cons v210112221 (collectScores_cons v201112221 collectScores_nil)) rfl

theorem v200112201 : readBoardAux P2 5 (⟨N2, N0, N0, N1, N1, N2, N2, N0, N1⟩ : Grid) P2 = some (Z0, some M01) :=
  readBoardAux_step P2 4 (⟨N2, N0, N0, N1, N1, N2, N2, N0, N1⟩ : Grid) P2 [M01, M02, M21] rfl rfl
    (collectScores_cons v220112201 (collectScores_cons v202112201 (collectScores_cons v200112221 collectScores_nil))) rfl

theorem v200112200 : readBoardAux P2 6 (⟨N2, N0, N0, N1, N1, N2, N2, N0, N0⟩ : Grid) P1 = some (Z0, some M01) :=
  readBoardAux_step P2 5 (⟨N2, N0, N0, N1, N1, N2, N2, N0, N0⟩ : Grid) P1 [M01, M02, M21, M22] rfl rfl
    (collectScores_cons v210112200 (collectScores_cons v201112200 (collectScores_cons v200112210 (collectScores_cons v200112201 collectScores_nil)))) rfl

theorem v200112122 : readBoardAux P2 4 (⟨N2, N0, N0, N1, N1, N2, N1, N2, N2⟩ : Grid) P1 = some (ZM, some M02) :=
  readBoardAux_step P2 3 (⟨N2, N0, N0, N1, N1, N2, N1, N2, N2⟩ : Grid) P1 [M01, M02] rfl rfl
    (collectScores_cons v210112122 (collectScores_cons t201112122 collectScores_nil)) rfl

theorem v200112120 : readBoardAux P2 5 (⟨N2, N0, N0, N1, N1, N2, N1, N2, N0⟩ : Grid) P2 = some (ZP, some M02) :=
  readBoardAux_step P2 4 (⟨N2, N0, N0, N1, N1, N2, N1, N2, N0⟩ : Grid) P2 [M01, M02, M22] rfl rfl
    (collectScores_cons v220112120 (collectScores_cons v202112120 (collectScores_cons v200112122 collectScores_nil))) rfl

theorem v200112021 : readBoardAux P2 5 (⟨N2, N0, N0, N1, N1, N2, N0, N2, N1⟩ : Grid) P2 = some (Z0, some M01) :=
  readBoardAux_step P2 4 (⟨N2, N0, N0, N1, N1, N2, N0, N2, N1⟩ : Grid) P2 [M01, M02, M20] rfl rfl
    (collectScores_cons v220112021 (collectScores_cons v202112021 (collectScores_cons v200112221 collectScores_nil))) rfl

theorem v200112020 : readBoardAux P2 6 (⟨N2, N0, N0, N1, N1, N2, N0, N2, N0⟩ : Grid) P1 = some (Z0, some M02) :=
  readBoardAux_step P2 5 (⟨N2, N0, N0, N1, N1, N2, N0, N2, N0⟩ : Grid) P1 [M01, M02, M20, M22] rfl rfl
    (collectScores_cons v210112020 (collectScores_cons v201112020 (collectScores_cons v200112120 (collectScores_cons v200112021 collectScores_nil)))) rfl

theorem v200112102 : readBoardAux P2 5 (⟨N2, N0, N0, N1, N1, N2, N1, N0, N2⟩ : Grid) P2 = some (ZP, some M02) :=
  readBoardAux_step P2 4 (⟨N2, N0, N0, N1, N1, N2, N1, N0, N2⟩ : Grid) P2 [M01, M02, M21] rfl rfl
    (collectScores_cons v220112102 (collectScores_cons t202112102 (collectScores_cons v200112122 collectScores_nil))) rfl

theorem v200112012 : readBoardAux P2 5 (⟨N2, N0, N0, N1, N1, N2, N0, N1, N2⟩ : Grid) P2 = some (ZP, some M02) :=
  readBoardAux_step P2 4 (⟨N2, N0, N0, N1, N1, N2, N0, N1, N2⟩ : Grid) P2 [M01, M02, M20] rfl rfl
    (collectScores_cons v220112012 (collectScores_cons t202112012 (collectScores_cons v200112212 collectScores_nil))) rfl

theorem v200112002 : readBoardAux P2 6 (⟨N2, N0, N0, N1, N1, N2, N0, N0, N2⟩ : Grid) P1 = some (Z0, some M02) :=
  readBoardAux_step P2 5 (⟨N2, N0, N0, N1, N1, N2, N0, N0, N2⟩ : Grid) P1 [M01, M02, M20, M21] rfl rfl
    (collectScores_cons v210112002 (collectScores_cons v201112002 (collectScores_cons v200112102 (collectScores_cons v200112012 collectScores_nil)))) rfl

theorem v200112000 : readBoardAux P2 7 (⟨N2, N0, N0, N1, N1, N2, N0, N0, N0⟩ : Grid) P2 = some (ZP, some M02) :=
  readBoardAux_step P2 6 (⟨N2, N0, N0, N1, N1, N2, N0, N0, N0⟩ : Grid) P2 [M01, M02, M20, M21, M22] rfl rfl
    (collectScores_cons v220112000 (collectScores_cons v202112000 (collectScores_cons v200112200 (collectScores_cons v200112020 (collectScores_cons v200112002 collectScores_nil))))) rfl

theorem v200102121 : readBoardAux P2 5 (⟨N2, N0, N0, N1, N0, N2, N1, N2, N1⟩ : Grid) P2 = some (ZP, some M01) :=
  readBoardAux_step P2 4 (⟨N2, N0, N0, N1, N0, N2, N1, N2, N1⟩ : Grid) P2 [M01, M02, M11] rfl rfl
    (collectScores_cons v220102121 (collectScores_cons v202102121 (collectScores_cons v200122121 collectScores_nil))) rfl

theorem v200102120 : readBoardAux P2 6 (⟨N2, N0, N0, N1, N0, N2, N1, N2, N0⟩ : Grid) P1 = some (ZP, some M01) :=
  readBoardAux_step P2 5 (⟨N2, N0, N0, N1, N0, N2, N1, N2, N0⟩ : Grid) P1 [M01, M02, M11, M22] rfl rfl
    (collectScores_cons v210102120 (collectScores_cons v201102120 (collectScores_cons v200112120 (collectScores_cons v200102121 collectScores_nil)))) rfl

theorem v200102112 : readBoardAux P2 5 (⟨N2, N0, N0, N1, N0, N2, N1, N1, N2⟩ : Grid) P2 = some (ZP, some M01) :=
  readBoardAux_step P2 4 (⟨N2, N0, N0, N1, N0, N2, N1, N1, N2⟩ : Grid) P2 [M01, M02, M11] rfl rfl
    (collectScores_cons v220102112 (collectScores_cons t202102112 (collectScores_cons t200122112 collectScores_nil))) rfl

theorem v200102102 : readBoardAux P2 6 (⟨N2, N0, N0, N1, N0, N2, N1, N0, N2⟩ : Grid) P1 = some (ZP, some M01) :=
  readBoardAux_step P2 5 (⟨N2, N0, N0, N1, N0, N2, N1, N0, N2⟩ : Grid) P1 [M01, M02, M11, M21] rfl rfl
    (collectScores_cons v210102102 (collectScores_cons v201102102 (collectScores_cons v200112102 (collectScores_cons v200102112 collectScores_nil)))) rfl

theorem v200102100 : readBoardAux P2 7 (⟨N2, N0, N0, N1, N0, N2, N1, N0, N0⟩ : Grid) P2 = some (ZP, some M01) :=
  readBoardAux_step P2 6 (⟨N2, N0, N0, N1, N0, N2, N1, N0, N0⟩ : Grid) P2 [M01, M02, M11, M21, M22] rfl rfl
    (collectScores_cons v220102100 (collectScores_cons v202102100 (collectScores_cons v200122100 (collectScores_cons v200102120 (collectScores_cons v200102102 collectScores_nil))))) rfl

theorem v200102211 : readBoardAux P2 5 (⟨N2, N0, N0, N1, N0, N2, N2, N1, N1⟩ : Grid) P2 = some (ZP, some M02) :=
  readBoardAux_step P2 4 (⟨N2, N0, N0, N1, N0, N2, N2, N1, N1⟩ : Grid) P2 [M01, M02, M11] rfl rfl
    (collectScores_cons v220102211 (collectScores_cons v202102211 (collectScores_cons v200122211 collectScores_nil))) rfl

theorem v200102210 : readBoardAux P2 6 (⟨N2, N0, N0, N1, N0, N2, N2, N1, N0⟩ : Grid) P1 = some (Z0, some M02) :=
  readBoardAux_step P2 5 (⟨N2, N0, N0, N1, N0, N2, N2, N1, N0⟩ : Grid) P1 [M01, M02, M11, M22] rfl rfl
    (collectScores_cons v210102210 (collectScores_cons v201102210 (collectScores_cons v200112210 (collectScores_cons v200102211 collectScores_nil)))) rfl

theorem v200102012 : readBoardAux P2 6 (⟨N2, N0, N0, N1, N0, N2, N0, N1, N2⟩ : Grid) P1 = some (ZP, some M01) :=
  readBoardAux_step P2 5 (⟨N2, N0, N0, N1, N0, N2, N0, N1, N2⟩ : Grid) P1 [M01, M02, M11, M20] rfl rfl
    (collectScores_cons v210102012 (collectScores_cons v201102012 (collectScores_cons v200112012 (collectScores_cons v200102112 collectScores_nil)))) rfl

theorem v200102010 : readBoardAux P2 7 (⟨N2, N0, N0, N1, N0, N2, N0, N1, N0⟩ : Grid) P2 = some (ZP, some M02) :=
  readBoardAux_step P2 6 (⟨N2, N0, N0, N1, N0, N2, N0, N1, N0⟩ : Grid) P2 [M01, M02, M11, M20, M22] rfl rfl
    (collectScores_cons v220102010 (collectScores_cons v202102010 (collectScores_cons v200122010 (collectScores_cons v200102210 (collectScores_cons v200102012 collectScores_nil))))) rfl

theorem v200102201 : readBoardAux P2 6 (⟨N2, N0, N0, N1, N0, N2, N2, N0, N1⟩ : Grid) P1 = some (Z0, some M01) :=
  readBoardAux_step P2 5 (⟨N2, N0, N0, N1, N0, N2, N2, N0, N1⟩ : Grid) P1 [M01, M02, M11, M21] rfl rfl
    (collectScores_cons v210102201 (collectScores_cons v201102201 (collectScores_cons v200112201 (collectScores_cons v200102211 collectScores_nil)))) rfl

theorem v200102021 : readBoardAux P2 6 (⟨N2, N0, N0, N1, N0, N2, N0, N2, N1⟩ : Grid) P1 = some (Z0, some M01) :=
  readBoardAux_step P2 5 (⟨N2, N0, N0, N1, N0, N2, N0, N2, N1⟩ : Grid) P1 [M01, M02, M11, M20] rfl rfl
    (collectScores_cons v210102021 (collectScores_cons v201102021 (collectScores_cons v200112021 (collectScores_cons v200102121 collectScores_nil)))) rfl

theorem v200102001 : readBoardAux P2 7 (⟨N2, N0, N0, N1, N0, N2, N0, N0, N1⟩ : Grid) P2 = some (Z0, some M01) :=
  readBoardAux_step P2 6 (⟨N2, N0, N0, N1, N0, N2, N0, N0, N1⟩ : Grid) P2 [M01, M02, M11, M20, M21] rfl rfl
    (collectScores_cons v220102001 (collectScores_cons v202102001 (collectScores_cons v200122001 (collectScores_cons v200102201 (collectScores_cons v200102021 collectScores_nil))))) rfl

theorem v200102000 : readBoardAux P2 8 (⟨N2, N0, N0, N1, N0, N2, N0, N0, N0⟩ : Grid) P1 = some (Z0, some M02) :=
  readBoardAux_step P2 7 (⟨N2, N0, N0, N1, N0, N2, N0, N0, N0⟩ : Grid) P1 [M01, M02, M11, M20, M21, M22] rfl rfl
    (collectScores_cons v210102000 (collectScores_cons v201102000 (collectScores_cons v200112000 (collectScores_cons v200102100 (collectScores_cons v200102010 (collectScores_cons v200102001 collectScores_nil)))))) rfl

theorem t200111220 : readBoardAux P2 5 (⟨N2, N0, N0, N1, N1, N1, N2, N2, N0⟩ : Grid) P2 = some (ZM, none) :=
  rfl

theorem v200110221 : readBoardAux P2 5 (⟨N2, N0, N0, N1, N1, N0, N2, N2, N1⟩ : Grid) P2 = some (Z0, some M12) :=
  readBoardAux_step P2 4 (⟨N2, N0, N0, N1, N1, N0, N2, N2, N1⟩ : Grid) P2 [M01, M02, M12] rfl rfl
    (collectScores_cons v220110221 (collectScores_cons v202110221 (collectScores_cons v200112221 collectScores_nil))) rfl

theorem v200110220 : readBoardAux P2 6 (⟨N2, N0, N0, N1, N1, N0, N2, N2, N0⟩ : Grid) P1 = some (ZM, some M12) :=
  readBoardAux_step P2 5 (⟨N2, N0, N0, N1, N1, N0, N2, N2, N0⟩ : Grid) P1 [M01, M02, M12, M22] rfl rfl
    (collectScores_cons v210110220 (collectScores_cons v201110220 (collectScores_cons t200111220 (collectScores_cons v200110221 collectScores_nil)))) rfl

theorem t200111202 : readBoardAux P2 5 (⟨N2, N0, N0, N1, N1, N1, N2, N0, N2⟩ : Grid) P2 = some (ZM, none) :=
  rfl

theorem v200110212 : readBoardAux P2 5 (⟨N2, N0, N0, N1, N1, N0, N2, N1, N2⟩ : Grid) P2 = some (ZM, some M01) :=
  readBoardAux_step P2 4 (⟨N2, N0, N0, N1, N1, N0, N2, N1, N2⟩ : Grid) P2 [M01, M02, M12] rfl rfl
    (collectScores_cons v220110212 (collectScores_cons v202110212 (collectScores_cons v200112212 collectScores_nil))) rfl

theorem v200110202 : readBoardAux P2 6 (⟨N2, N0, N0, N1, N1, N0, N2, N0, N2⟩ : Grid) P1 = some (ZM, some M12) :=
  readBoardAux_step P2 5 (⟨N2, N0, N0, N1, N1, N0, N2, N0, N2⟩ : Grid) P1 [M01, M02, M12, M21] rfl rfl
    (collectScores_cons v210110202 (collectScores_cons v201110202 (collectScores_cons t200111202 (collectScores_cons v200110212 collectScores_nil)))) rfl

theorem v200110200 : readBoardAux P2 7 (⟨N2, N0, N0, N1, N1, N0, N2, N0, N0⟩ : Grid) P2 = some (Z0, some M12) :=
  readBoardAux_step P2 6 (⟨N2, N0, N0, N1, N1, N0, N2, N0, N0⟩ : Grid) P2 [M01, M02, M12, M21, M22] rfl rfl
    (collectScores_cons v220110200 (collectScores_cons v202110200 (collectScores_cons v200112200 (collectScores_cons v200110220 (collectScores_cons v200110202 collectScores_nil))))) rfl

theorem v200101221 : readBoardAux P2 5 (⟨N2, N0, N0, N1, N0, N1, N2, N2, N1⟩ : Grid) P2 = some (ZM, some M01) :=
  readBoardAux_step P2 4 (⟨N2, N0, N0, N1, N0, N1, N2, N2, N1⟩ : Grid) P2 [M01, M02, M11] rfl rfl
    (collectScores_cons v220101221 (collectScores_cons v202101221 (collectScores_cons v200121221 collectScores_nil))) rfl

theorem v200101220 : readBoardAux P2 6 (⟨N2, N0, N0, N1, N0, N1, N2, N2, N0⟩ : Grid) P1 = some (ZM, some M11) :=
  readBoardAux_step P2 5 (⟨N2, N0, N0, N1, N0, N1, N2, N2, N0⟩ : Grid) P1 [M01, M02, M11, M22] rfl rfl
    (collectScores_cons v210101220 (collectScores_cons v201101220 (collectScores_cons t200111220 (collectScores_cons v200101221 collectScores_nil)))) rfl

theorem v200101212 : readBoardAux P2 5 (⟨N2, N0, N0, N1, N0, N1, N2, N1, N2⟩ : Grid) P2 = some (ZP, some M11) :=
  readBoardAux_step P2 4 (⟨N2, N0, N0, N1, N0, N1, N2, N1, N2⟩ : Grid) P2 [M01, M02, M11] rfl rfl
    (collectScores_cons v220101212 (collectScores_cons v202101212 (collectScores_cons t200121212 collectScores_nil))) rfl

theorem v200101202 : readBoardAux P2 6 (⟨N2, N0, N0, N1, N0, N1, N2, N0, N2⟩ : Grid) P1 = some (ZM, some M11) :=
  readBoardAux_step P2 5 (⟨N2, N0, N0, N1, N0, N1, N2, N0, N2⟩ : Grid) P1 [M01, M02, M11, M21] rfl rfl
    (collectScores_cons v210101202 (collectScores_cons v201101202 (collectScores_cons t200111202 (collectScores_cons v200101212 collectScores_nil)))) rfl

theorem v200101200 : readBoardAux P2 7 (⟨N2, N0, N0, N1, N0, N1, N2, N0, N0⟩ : Grid) P2 = some (ZP, some M11) :=
  readBoardAux_step P2 6 (⟨N2, N0, N0, N1, N0, N1, N2, N0, N0⟩ : Grid) P2 [M01, M02, M11, M21, M22] rfl rfl
    (collectScores_cons v220101200 (collectScores_cons v202101200 (collectScores_cons v200121200 (collectScores_cons v200101220 (collectScores_cons v200101202 collectScores_nil))))) rfl

theorem v200100212 : readBoardAux P2 6 (⟨N2, N0, N0, N1, N0, N0, N2, N1, N2⟩ : Grid) P1 = some (ZM, some M11) :=
  readBoardAux_step P2 5 (⟨N2, N0, N0, N1, N0, N0, N2, N1, N2⟩ : Grid) P1 [M01, M02, M11, M12] rfl rfl
    (collectScores_cons v210100212 (collectScores_cons v201100212 (collectScores_cons v200110212 (collectScores_cons v200101212 collectScores_nil)))) rfl

theorem v200100210 : readBoardAux P2 7 (⟨N2, N0, N0, N1, N0, N0, N2, N1, N0⟩ : Grid) P2 = some (ZP, some M02) :=
  readBoardAux_step P2 6 (⟨N2, N0, N0, N1, N0, N0, N2, N1, N0⟩ : Grid) P2 [M01, M02, M11, M12, M22] rfl rfl
    (collectScores_cons v220100210 (collectScores_cons v202100210 (collectScores_cons v200120210 (collectScores_cons v200102210 (collectScores_cons v200100212 collectScores_nil))))) rfl

theorem v200100221 : readBoardAux P2 6 (⟨N2, N0, N0, N1, N0, N0, N2, N2, N1⟩ : Grid) P1 = some (ZM, some M12) :=
  readBoardAux_step P2 5 (⟨N2, N0, N0, N1, N0, N0, N2, N2, N1⟩ : Grid) P1 [M01, M02, M11, M12] rfl rfl
    (collectScores_cons v210100221 (collectScores_cons v201100221 (collectScores_cons v200110221 (collectScores_cons v200101221 collectScores_nil)))) rfl

theorem v200100201 : readBoardAux P2 7 (⟨N2, N0, N0, N1, N0, N0, N2, N0, N1⟩ : Grid) P2 = some (ZP, some M02) :=
  readBoardAux_step P2 6 (⟨N2, N0, N0, N1, N0, N0, N2, N0, N1⟩ : Grid) P2 [M01, M02, M11, M12, M21] rfl rfl
    (collectScores_cons v220100201 (collectScores_cons v202100201 (collectScores_cons v200120201 (collectScores_cons v200102201 (collectScores_cons v200100221 collectScores_nil))))) rfl

theorem v200100200 : readBoardAux P2 8 (⟨N2, N0, N0, N1, N0, N0, N2, N0, N0⟩ : Grid) P1 = some (Z0, some M11) :=
  readBoardAux_step P2 7 (⟨N2, N0, N0, N1, N0, N0, N2, N0, N0⟩ : Grid) P1 [M01, M02, M11, M12, M21, M22] rfl rfl
    (collectScores_cons v210100200 (collectScores_cons v201100200 (collectScores_cons v200110200 (collectScores_cons v200101200 (collectScores_cons v200100210 (collectScores_cons v200100201 collectScores_nil)))))) rfl

theorem t200111022 : readBoardAux P2 5 (⟨N2, N0, N0, N1, N1, N1, N0, N2, N2⟩ : Grid) P2 = some (ZM, none) :=
  rfl

theorem v200110122 : readBoardAux P2 5 (⟨N2, N0, N0, N1, N1, N0, N1, N2, N2⟩ : Grid) P2 = some (ZM, some M01) :=
  readBoardAux_step P2 4 (⟨N2, N0, N0, N1, N1, N0, N1, N2, N2⟩ : Grid) P2 [M01, M02, M12] rfl rfl
    (collectScores_cons v220110122 (collectScores_cons v202110122 (collectScores_cons v200112122 collectScores_nil))) rfl

theorem v200110022 : readBoardAux P2 6 (⟨N2, N0, N0, N1, N1, N0, N0, N2, N2⟩ : Grid) P1 = some (ZM, some M12) :=
  readBoardAux_step P2 5 (⟨N2, N0, N0, N1, N1, N0, N0, N2, N2⟩ : Grid) P1 [M01, M02, M12, M20] rfl rfl
    (collectScores_cons v210110022 (collectScores_cons v201110022 (collectScores_cons t200111022 (collectScores_cons v200110122 collectScores_nil)))) rfl

theorem v200110020 : readBoardAux P2 7 (⟨N2, N0, N0, N1, N1, N0, N0, N2, N0⟩ : Grid) P2 = some (Z0, some M12) :=
  readBoardAux_step P2 6 (⟨N2, N0, N0, N1, N1, N0, N0, N2, N0⟩ : Grid) P2 [M01, M02, M12, M20, M22] rfl rfl
    (collectScores_cons v220110020 (collectScores_cons v202110020 (collectScores_cons v200112020 (collectScores_cons v200110220 (collectScores_cons v200110022 collectScores_nil))))) rfl

theorem v200101122 : readBoardAux P2 5 (⟨N2, N0, N0, N1, N0, N1, N1, N2, N2⟩ : Grid) P2 = some (ZP, some M11) :=
  readBoardAux_step P2 4 (⟨N2, N0, N0, N1, N0, N1, N1, N2, N2⟩ : Grid) P2 [M01, M02, M11] rfl rfl
    (collectScores_cons v220101122 (collectScores_cons v202101122 (collectScores_cons t200121122 collectScores_nil))) rfl

theorem v200101022 : readBoardAux P2 6 (⟨N2, N0, N0, N1, N0, N1, N0, N2, N2⟩ : Grid) P1 = some (ZM, some M11) :=
  readBoardAux_step P2 5 (⟨N2, N0, N0, N1, N0, N1, N0, N2, N2⟩ : Grid) P1 [M01, M02, M11, M20] rfl rfl
    (collectScores_cons v210101022 (collectScores_cons v201101022 (collectScores_cons t200111022 (collectScores_cons v200101122 collectScores_nil)))) rfl

theorem v200101020 : readBoardAux P2 7 (⟨N2, N0, N0, N1, N0, N1, N0, N2, N0⟩ : Grid) P2 = some (ZP, some M11) :=
  readBoardAux_step P2 6 (⟨N2, N0, N0, N1, N0, N1, N0, N2, N0⟩ : Grid) P2 [M01, M02, M11, M20, M22] rfl rfl
    (collectScores_cons v220101020 (collectScores_cons v202101020 (collectScores_cons v200121020 (collectScores_cons v200101220 (collectScores_cons v200101022 collectScores_nil))))) rfl

theorem v200100122 : readBoardAux P2 6 (⟨N2, N0, N0, N1, N0, N0, N1, N2, N2⟩ : Grid) P1 = some (ZM, some M11) :=
  readBoardAux_step P2 5 (⟨N2, N0, N0, N1, N0, N0, N1, N2, N2⟩ : Grid) P1 [M01, M02, M11, M12] rfl rfl
    (collectScores_cons v210100122 (collectScores_cons v201100122 (collectScores_cons v200110122 (collectScores_cons v200101122 collectScores_nil)))) rfl

theorem v200100120 : readBoardAux P2 7 (⟨N2, N0, N0, N1, N0, N0, N1, N2, N0⟩ : Grid) P2 = some (ZP, some M01) :=
  readBoardAux_step P2 6 (⟨N2, N0, N0, N1, N0, N0, N1, N2, N0⟩ : Grid) P2 [M01, M02, M11, M12, M22] rfl rfl
    (collectScores_cons v220100120 (collectScores_cons v202100120 (collectScores_cons v200120120 (collectScores_cons v200102120 (collectScores_cons v200100122 collectScores_nil))))) rfl

theorem v200100021 : readBoardAux P2 7 (⟨N2, N0, N0, N1, N0, N0, N0, N2, N1⟩ : Grid) P2 = some (ZP, some M01) :=
  readBoardAux_step P2 6 (⟨N2, N0, N0, N1, N0, N0, N0, N2, N1⟩ : Grid) P2 [M01, M02, M11, M12, M20] rfl rfl
    (collectScores_cons v220100021 (collectScores_cons v202100021 (collectScores_cons v200120021 (collectScores_cons v200102021 (collectScores_cons v200100221 collectScores_nil))))) rfl

theorem v200100020 : readBoardAux P2 8 (⟨N2, N0, N0, N1, N0, N0, N0, N2, N0⟩ : Grid) P1 = some (Z0, some M11) :=
  readBoardAux_step P2 7 (⟨N2, N0, N0, N1, N0, N0, N0, N2, N0⟩ : Grid) P1 [M01, M02, M11, M12, M20, M22] rfl rfl
    (collectScores_cons v210100020 (collectScores_cons v201100020 (collectScores_cons v200110020 (collectScores_cons v200101020 (collectScores_cons v200100120 (collectScores_cons v200100021 collectScores_nil)))))) rfl

theorem v200110002 : readBoardAux P2 7 (⟨N2, N0, N0, N1, N1, N0, N0, N0, N2⟩ : Grid) P2 = some (Z0, some M12) :=
  readBoardAux_step P2 6 (⟨N2, N0, N0, N1, N1, N0, N0, N0, N2⟩ : Grid) P2 [M01, M02, M12, M20, M21] rfl rfl
    (collectScores_cons v220110002 (collectScores_cons v202110002 (collectScores_cons v200112002 (collectScores_cons v200110202 (collectScores_cons v200110022 collectScores_nil))))) rfl

theorem v200101002 : readBoardAux P2 7 (⟨N2, N0, N0, N1, N0, N1, N0, N0, N2⟩ : Grid) P2 = some (ZP, some M11) :=
  readBoardAux_step P2 6 (⟨N2, N0, N0, N1, N0, N1, N0, N0, N2⟩ : Grid) P2 [M01, M02, M11, M20, M21] rfl rfl
    (collectScores_cons v220101002 (collectScores_cons v202101002 (collectScores_cons t200121002 (collectScores_cons v200101202 (collectScores_cons v200101022 collectScores_nil))))) rfl

theorem v200100102 : readBoardAux P2 7 (⟨N2, N0, N0, N1, N0, N0, N1, N0, N2⟩ : Grid) P2 = some (ZP, some M01) :=
  readBoardAux_step P2 6 (⟨N2, N0, N0, N1, N0, N0, N1, N0, N2⟩ : Grid) P2 [M01, M02, M11, M12, M21] rfl rfl
    (collectScores_cons v220100102 (collectScores_cons v202100102 (collectScores_cons t200120102 (collectScores_cons v200102102 (collectScores_cons v200100122 collectScores_nil))))) rfl

theorem v200100012 : readBoardAux P2 7 (⟨N2, N0, N0, N1, N0, N0, N0, N1, N2⟩ : Grid) P2 = some (ZP, some M01) :=
  readBoardAux_step P2 6 (⟨N2, N0, N0, N1, N0, N0, N0, N1, N2⟩ : Grid) P2 [M01, M02, M11, M12, M20] rfl rfl
    (collectScores_cons v220100012 (collectScores_cons v202100012 (collectScores_cons t200120012 (collectScores_cons v200102012 (collectScores_cons v200100212 collectScores_nil))))) rfl

theorem v200100002 : readBoardAux P2 8 (⟨N2, N0, N0, N1, N0, N0, N0, N0, N2⟩ : Grid) P1 = some (Z0, some M11) :=
  readBoardAux_step P2 7 (⟨N2, N0, N0, N1, N0, N0, N0, N0, N2⟩ : Grid) P1 [M01, M02, M11, M12, M20, M21] rfl rfl
    (collectScores_cons v210100002 (collectScores_cons v201100002 (collectScores_cons v200110002 (collectScores_cons v200101002 (collectScores_cons v200100102 (collectScores_cons v200100012 collectScores_nil)))))) rfl

theorem v200100000 : readBoardAux P2 9 (⟨N2, N0, N0, N1, N0, N0, N0, N0, N0⟩ : Grid) P2 = some (ZP, some M01) :=
  readBoardAux_step P2 8 (⟨N2, N0, N0, N1, N0, N0, N0, N0, N0⟩ : Grid) P2 [M01, M02, M11, M12, M20, M21, M22] rfl rfl
    (collectScores_cons v220100000 (collectScores_cons v202100000 (collectScores_cons v200120000 (collectScores_cons v200102000 (collectScores_cons v200100200 (collectScores_cons v200100020 (collectScores_cons v200100002 collectScores_nil))))))) rfl

theorem t222011000 : readBoardAux P2 6 (⟨N2, N2, N2, N0, N1, N1, N0, N0, N0⟩ : Grid) P1 = some (ZP, none) :=
  rfl

theorem t222211100 : readBoardAux P2 4 (⟨N2, N2, N2, N2, N1, N1, N1, N0, N0⟩ : Grid) P1 = some (ZP, none) :=
  rfl

theorem t222211121 : readBoardAux P2 2 (⟨N2, N2, N2, N2, N1, N1, N1, N2, N1⟩ : Grid) P1 = some (ZP, none) :=
  rfl

theorem v220211121 : readBoardAux P2 3 (⟨N2, N2, N0, N2, N1, N1, N1, N2, N1⟩ : Grid) P2 = some (ZP, some M02) :=
  readBoardAux_step P2 2 (⟨N2, N2, N0, N2, N1, N1, N1, N2, N1⟩ : Grid) P2 [M02] rfl rfl
    (collectScores_cons t222211121 collectScores_nil) rfl

theorem v220211120 : readBoardAux P2 4 (⟨N2, N2, N0, N2, N1, N1, N1, N2, N0⟩ : Grid) P1 = some (ZM, some M02) :=
  readBoardAux_step P2 3 (⟨N2, N2, N0, N2, N1, N1, N1, N2, N0⟩ : Grid) P1 [M02, M22] rfl rfl
    (collectScores_cons t221211120 (collectScores_cons v220211121 collectScores_nil)) rfl

theorem t222211112 : readBoardAux P2 2 (⟨N2, N2, N2, N2, N1, N1, N1, N1, N2⟩ : Grid) P1 = some (ZP, none) :=
  rfl

theorem v220211112 : readBoardAux P2 3 (⟨N2, N2, N0, N2, N1, N1, N1, N1, N2⟩ : Grid) P2 = some (ZP, some M02) :=
  readBoardAux_step P2 2 (⟨N2, N2, N0, N2, N1, N1, N1, N1, N2⟩ : Grid) P2 [M02] rfl rfl
    (collectScores_cons t222211112 collectScores_nil) rfl

theorem v220211102 : readBoardAux P2 4 (⟨N2, N2, N0, N2, N1, N1, N1, N0, N2⟩ : Grid) P1 = some (ZM, some M02) :=
  readBoardAux_step P2 3 (⟨N2, N2, N0, N2, N1, N1, N1, N0, N2⟩ : Grid) P1 [M02, M21] rfl rfl
    (collectScores_cons t221211102 (collectScores_cons v220211112 collectScores_nil)) rfl

theorem v220211100 : readBoardAux P2 5 (⟨N2, N2, N0, N2, N1, N1, N1, N0, N0⟩ : Grid) P2 = some (ZP, some M02) :=
  readBoardAux_step P2 4 (⟨N2, N2, N0, N2, N1, N1, N1, N0, N0⟩ : Grid) P2 [M02, M21, M22] rfl rfl
    (collectScores_cons t222211100 (collectScores_cons v220211120 (collectScores_cons v220211102 collectScores_nil))) rfl

theorem t222211010 : readBoardAux P2 4 (⟨N2, N2, N2, N2, N1, N1, N0, N1, N0⟩ : Grid) P1 = some (ZP, none) :=
  rfl

theorem t220211210 : readBoardAux P2 4 (⟨N2, N2, N0, N2, N1, N1, N2, N1, N0⟩ : Grid) P1 = some (ZP, none) :=
  rfl

theorem v220211012 : readBoardAux P2 4 (⟨N2, N2, N0, N2, N1, N1, N0, N1, N2⟩ : Grid) P1 = some (ZP, some M02) :=
  readBoardAux_step P2 3 (⟨N2, N2, N0, N2, N1, N1, N0, N1, N2⟩ : Grid) P1 [M02, M20] rfl rfl
    (collectScores_cons v221211012 (collectScores_cons v220211112 collectScores_nil)) rfl

theorem v220211010 : readBoardAux P2 5 (⟨N2, N2, N0, N2, N1, N1, N0, N1, N0⟩ : Grid) P2 = some (ZP, some M02) :=
  readBoardAux_step P2 4 (⟨N2, N2, N0, N2, N1, N1, N0, N1, N0⟩ : Grid) P2 [M02, M20, M22] rfl rfl
    (collectScores_cons t222211010 (collectScores_cons t220211210 (collectScores_cons v220211012 collectScores_nil))) rfl

theorem t222211001 : readBoardAux P2 4 (⟨N2, N2, N2, N2, N1, N1, N0, N0, N1⟩ : Grid) P1 = some (ZP, none) :=
  rfl

theorem t220211201 : readBoardAux P2 4 (⟨N2, N2, N0, N2, N1, N1, N2, N0, N1⟩ : Grid) P1 = some (ZP, none) :=
  rfl

theorem v220211021 : readBoardAux P2 4 (⟨N2, N2, N0, N2, N1, N1, N0, N2, N1⟩ : Grid) P1 = some (ZM, some M02) :=
  readBoardAux_step P2 3 (⟨N2, N2, N0, N2, N1, N1, N0, N2, N1⟩ : Grid) P1 [M02, M20] rfl rfl
    (collectScores_cons t221211021 (collectScores_cons v220211121 collectScores_nil)) rfl

theorem v220211001 : readBoardAux P2 5 (⟨N2, N2, N0, N2, N1, N1, N0, N0, N1⟩ : Grid) P2 = some (ZP, some M02) :=
  readBoardAux_step P2 4 (⟨N2, N2, N0, N2, N1, N1, N0, N0, N1⟩ : Grid) P2 [M02, M20, M21] rfl rfl
    (collectScores_cons t222211001 (collectScores_cons t220211201 (collectScores_cons v220211021 collectScores_nil))) rfl

theorem v220211000 : readBoardAux P2 6 (⟨N2, N2, N0, N2, N1, N1, N0, N0, N0⟩ : Grid) P1 = some (ZP, some M02) :=
  readBoardAux_step P2 5 (⟨N2, N2, N0, N2, N1, N1, N0, N0, N0⟩ : Grid) P1 [M02, M20, M21, M22] rfl rfl
    (collectScores_cons v221211000 (collectScores_cons v220211100 (collectScores_cons v220211010 (collectScores_cons v220211001 collectScores_nil)))) rfl

theorem t222011210 : readBoardAux P2 4 (⟨N2, N2, N2, N0, N1, N1, N2, N1, N0⟩ : Grid) P1 = some (ZP, none) :=
  rfl

theorem v220011212 : readBoardAux P2 4 (⟨N2, N2, N0, N0, N1, N1, N2, N1, N2⟩ : Grid) P1 = some (ZM, some M10) :=
  readBoardAux_step P2 3 (⟨N2, N2, N0, N0, N1, N1, N2, N1, N2⟩ : Grid) P1 [M02, M10] rfl rfl
    (collectScores_cons v221011212 (collectScores_cons t220111212 collectScores_nil)) rfl

theorem v220011210 : readBoardAux P2 5 (⟨N2, N2, N0, N0, N1, N1, N2, N1, N0⟩ : Grid) P2 = some (ZP, some M02) :=
  readBoardAux_step P2 4 (⟨N2, N2, N0, N0, N1, N1, N2, N1, N0⟩ : Grid) P2 [M02, M10, M22] rfl rfl
    (collectScores_cons t222011210 (collectScores_cons t220211210 (collectScores_cons v220011212 collectScores_nil))) rfl

theorem t222011201 : readBoardAux P2 4 (⟨N2, N2, N2, N0, N1, N1, N2, N0, N1⟩ : Grid) P1 = some (ZP, none) :=
  rfl

theorem v220011221 : readBoardAux P2 4 (⟨N2, N2, N0, N0, N1, N1, N2, N2, N1⟩ : Grid) P1 = some (ZM, some M02) :=
  readBoardAux_step P2 3 (⟨N2, N2, N0, N0, N1, N1, N2, N2, N1⟩ : Grid) P1 [M02, M10] rfl rfl
    (collectScores_cons t221011221 (collectScores_cons t220111221 collectScores_nil)) rfl

theorem v220011201 : readBoardAux P2 5 (⟨N2, N2, N0, N0, N1, N1, N2, N0, N1⟩ : Grid) P2 = some (ZP, some M02) :=
  readBoardAux_step P2 4 (⟨N2, N2, N0, N0, N1, N1, N2, N0, N1⟩ : Grid) P2 [M02, M10, M21] rfl rfl
    (collectScores_cons t222011201 (collectScores_cons t220211201 (collectScores_cons v220011221 collectScores_nil))) rfl

theorem v220011200 : readBoardAux P2 6 (⟨N2, N2, N0, N0, N1, N1, N2, N0, N0⟩ : Grid) P1 = some (ZM, some M10) :=
  readBoardAux_step P2 5 (⟨N2, N2, N0, N0, N1, N1, N2, N0, N0⟩ : Grid) P1 [M02, M10, M21, M22] rfl rfl
    (collectScores_cons v221011200 (collectScores_cons t220111200 (collectScores_cons v220011210 (collectScores_cons v220011201 collectScores_nil)))) rfl

theorem t222011120 : readBoardAux P2 4 (⟨N2, N2, N2, N0, N1, N1, N1, N2, N0⟩ : Grid) P1 = some (ZP, none) :=
  rfl

theorem v220011122 : readBoardAux P2 4 (⟨N2, N2, N0, N0, N1, N1, N1, N2, N2⟩ : Grid) P1 = some (ZM, some M02) :=
  readBoardAux_step P2 3 (⟨N2, N2, N0, N0, N1, N1, N1, N2, N2⟩ : Grid) P1 [M02, M10] rfl rfl
    (collectScores_cons t221011122 (collectScores_cons t220111122 collectScores_nil)) rfl

theorem v220011120 : readBoardAux P2 5 (⟨N2, N2, N0, N0, N1, N1, N1, N2, N0⟩ : Grid) P2 = some (ZP, some M02) :=
  readBoardAux_step P2 4 (⟨N2, N2, N0, N0, N1, N1, N1, N2, N0⟩ : Grid) P2 [M02, M10, M22] rfl rfl
    (collectScores_cons t222011120 (collectScores_cons v220211120 (collectScores_cons v220011122 collectScores_nil))) rfl

theorem t222011021 : readBoardAux P2 4 (⟨N2, N2, N2, N0, N1, N1, N0, N2, N1⟩ : Grid) P1 = some (ZP, none) :=
  rfl

theorem v220011021 : readBoardAux P2 5 (⟨N2, N2, N0, N0, N1, N1, N0, N2, N1⟩ : Grid) P2 = some (ZP, some M02) :=
  readBoardAux_step P2 4 (⟨N2, N2, N0, N0, N1, N1, N0, N2, N1⟩ : Grid) P2 [M02, M10, M20] rfl rfl
    (collectScores_cons t222011021 (collectScores_cons v220211021 (collectScores_cons v220011221 collectScores_nil))) rfl

theorem v220011020 : readBoardAux P2 6 (⟨N2, N2, N0, N0, N1, N1, N0, N2, N0⟩ : Grid) P1 = some (ZM, some M02) :=
  readBoardAux_step P2 5 (⟨N2, N2, N0, N0, N1, N1, N0, N2, N0⟩ : Grid) P1 [M02, M10, M20, M22] rfl rfl
    (collectScores_cons v221011020 (collectScores_cons t220111020 (collectScores_cons v220011120 (collectScores_cons v220011021 collectScores_nil)))) rfl

theorem t222011102 : readBoardAux P2 4 (⟨N2, N2, N2, N0, N1, N1, N1, N0, N2⟩ : Grid) P1 = some (ZP, none) :=
  rfl

theorem v220011102 : readBoardAux P2 5 (⟨N2, N2, N0, N0, N1, N1, N1, N0, N2⟩ : Grid) P2 = some (ZP, some M02) :=
  readBoardAux_step P2 4 (⟨N2, N2, N0, N0, N1, N1, N1, N0, N2⟩ : Grid) P2 [M02, M10, M21] rfl rfl
    (collectScores_cons t222011102 (collectScores_cons v220211102 (collectScores_cons v220011122 collectScores_nil))) rfl

theorem t222011012 : readBoardAux P2 4 (⟨N2, N2, N2, N0, N1, N1, N0, N1, N2⟩ : Grid) P1 = some (ZP, none) :=
  rfl

theorem v220011012 : readBoardAux P2 5 (⟨N2, N2, N0, N0, N1, N1, N0, N1, N2⟩ : Grid) P2 = some (ZP, some M02) :=
  readBoardAux_step P2 4 (⟨N2, N2, N0, N0, N1, N1, N0, N1, N2⟩ : Grid) P2 [M02, M10, M20] rfl rfl
    (collectScores_cons t222011012 (collectScores_cons v220211012 (collectScores_cons v220011212 collectScores_nil))) rfl

theorem v220011002 : readBoardAux P2 6 (⟨N2, N2, N0, N0, N1, N1, N0, N0, N2⟩ : Grid) P1 = some (ZM, some M02) :=
  readBoardAux_step P2 5 (⟨N2, N2, N0, N0, N1, N1, N0, N0, N2⟩ : Grid) P1 [M02, M10, M20, M21] rfl rfl
    (collectScores_cons v221011002 (collectScores_cons t220111002 (collectScores_cons v220011102 (collectScores_cons v220011012 collectScores_nil)))) rfl

theorem v220011000 : readBoardAux P2 7 (⟨N2, N2, N0, N0, N1, N1, N0, N0, N0⟩ : Grid) P2 = some (ZP, some M02) :=
  readBoardAux_step P2 6 (⟨N2, N2, N0, N0, N1, N1, N0, N0, N0⟩ : Grid) P2 [M02, M10, M20, M21, M22] rfl rfl
    (collectScores_cons t222011000 (collectScores_cons v220211000 (collectScores_cons v220011200 (collectScores_cons v220011020 (collectScores_cons v220011002 collectScores_nil))))) rfl

theorem t222010100 : readBoardAux P2 6 (⟨N2, N2, N2, N0, N1, N0, N1, N0, N0⟩ : Grid) P1 = some (ZP, none) :=
  rfl

theorem t222210110 : readBoardAux P2 4 (⟨N2, N2, N2, N2, N1, N0, N1, N1, N0⟩ : Grid) P1 = some (ZP, none) :=
  rfl

theorem t220212111 : readBoardAux P2 3 (⟨N2, N2, N0, N2, N1, N2, N1, N1, N1⟩ : Grid) P2 = some (ZM, none) :=
  rfl

theorem v220212110 : readBoardAux P2 4 (⟨N2, N2, N0, N2, N1, N2, N1, N1, N0⟩ : Grid) P1 = some (ZM, some M02) :=
  readBoardAux_step P2 3 (⟨N2, N2, N0, N2, N1, N2, N1, N1, N0⟩ : Grid) P1 [M02, M22] rfl rfl
    (collectScores_cons t221212110 (collectScores_cons t220212111 collectScores_nil)) rfl

theorem v220210112 : readBoardAux P2 4 (⟨N2, N2, N0, N2, N1, N0, N1, N1, N2⟩ : Grid) P1 = some (ZM, some M02) :=
  readBoardAux_step P2 3 (⟨N2, N2, N0, N2, N1, N0, N1, N1, N2⟩ : Grid) P1 [M02, M12] rfl rfl
    (collectScores_cons t221210112 (collectScores_cons v220211112 collectScores_nil)) rfl

theorem v220210110 : readBoardAux P2 5 (⟨N2, N2, N0, N2, N1, N0, N1, N1, N0⟩ : Grid) P2 = some (ZP, some M02) :=
  readBoardAux_step P2 4 (⟨N2, N2, N0, N2, N1, N0, N1, N1, N0⟩ : Grid) P2 [M02, M12, M22] rfl rfl
    (collectScores_cons t222210110 (collectScores_cons v220212110 (collectScores_cons v220210112 collectScores_nil))) rfl

theorem t222210101 : readBoardAux P2 4 (⟨N2, N2, N2, N2, N1, N0, N1, N0, N1⟩ : Grid) P1 = some (ZP, none) :=
  rfl

theorem v220212101 : readBoardAux P2 4 (⟨N2, N2, N0, N2, N1, N2, N1, N0, N1⟩ : Grid) P1 = some (ZM, some M02) :=
  readBoardAux_step P2 3 (⟨N2, N2, N0, N2, N1, N2, N1, N0, N1⟩ : Grid) P1 [M02, M21] rfl rfl
    (collectScores_cons t221212101 (collectScores_cons t220212111 collectScores_nil)) rfl

theorem v220210121 : readBoardAux P2 4 (⟨N2, N2, N0, N2, N1, N0, N1, N2, N1⟩ : Grid) P1 = some (ZM, some M02) :=
  readBoardAux_step P2 3 (⟨N2, N2, N0, N2, N1, N0, N1, N2, N1⟩ : Grid) P1 [M02, M12] rfl rfl
    (collectScores_cons t221210121 (collectScores_cons v220211121 collectScores_nil)) rfl

theorem v220210101 : readBoardAux P2 5 (⟨N2, N2, N0, N2, N1, N0, N1, N0, N1⟩ : Grid) P2 = some (ZP, some M02) :=
  readBoardAux_step P2 4 (⟨N2, N2, N0, N2, N1, N0, N1, N0, N1⟩ : Grid) P2 [M02, M12, M21] rfl rfl
    (collectScores_cons t222210101 (collectScores_cons v220212101 (collectScores_cons v220210121 collectScores_nil))) rfl

theorem v220210100 : readBoardAux P2 6 (⟨N2, N2, N0, N2, N1, N0, N1, N0, N0⟩ : Grid) P1 = some (ZM, some M02) :=
  readBoardAux_step P2 5 (⟨N2, N2, N0, N2, N1, N0, N1, N0, N0⟩ : Grid) P1 [M02, M12, M21, M22] rfl rfl
    (collectScores_cons t221210100 (collectScores_cons v220211100 (collectScores_cons v220210110 (collectScores_cons v220210101 collectScores_nil)))) rfl

theorem t222012110 : readBoardAux P2 4 (⟨N2, N2, N2, N0, N1, N2, N1, N1, N0⟩ : Grid) P1 = some (ZP, none) :=
  rfl

theorem v220012112 : readBoardAux P2 4 (⟨N2, N2, N0, N0, N1, N2, N1, N1, N2⟩ : Grid) P1 = some (ZM, some M02) :=
  readBoardAux_step P2 3 (⟨N2, N2, N0, N0, N1, N2, N1, N1, N2⟩ : Grid) P1 [M02, M10] rfl rfl
    (collectScores_cons t221012112 (collectScores_cons v220112112 collectScores_nil)) rfl

theorem v220012110 : readBoardAux P2 5 (⟨N2, N2, N0, N0, N1, N2, N1, N1, N0⟩ : Grid) P2 = some (ZP, some M02) :=
  readBoardAux_step P2 4 (⟨N2, N2, N0, N0, N1, N2, N1, N1, N0⟩ : Grid) P2 [M02, M10, M22] rfl rfl
    (collectScores_cons t222012110 (collectScores_cons v220212110 (collectScores_cons v220012112 collectScores_nil))) rfl

theorem t222012101 : readBoardAux P2 4 (⟨N2, N2, N2, N0, N1, N2, N1, N0, N1⟩ : Grid) P1 = some (ZP, none) :=
  rfl

theorem v220012121 : readBoardAux P2 4 (⟨N2, N2, N0, N0, N1, N2, N1, N2, N1⟩ : Grid) P1 = some (ZM, some M02) :=
  readBoardAux_step P2 3 (⟨N2, N2, N0, N0, N1, N2, N1, N2, N1⟩ : Grid) P1 [M02, M10] rfl rfl
    (collectScores_cons t221012121 (collectScores_cons v220112121 collectScores_nil)) rfl

theorem v220012101 : readBoardAux P2 5 (⟨N2, N2, N0, N0, N1, N2, N1, N0, N1⟩ : Grid) P2 = some (ZP, some M02) :=
  readBoardAux_step P2 4 (⟨N2, N2, N0, N0, N1, N2, N1, N0, N1⟩ : Grid) P2 [M02, M10, M21] rfl rfl
    (collectScores_cons t222012101 (collectScores_cons v220212101 (collectScores_cons v220012121 collectScores_nil))) rfl

theorem v220012100 : readBoardAux P2 6 (⟨N2, N2, N0, N0, N1, N2, N1, N0, N0⟩ : Grid) P1 = some (ZM, some M02) :=
  readBoardAux_step P2 5 (⟨N2, N2, N0, N0, N1, N2, N1, N0, N0⟩ : Grid) P1 [M02, M10, M21, M22] rfl rfl
    (collectScores_cons t221012100 (collectScores_cons v220112100 (collectScores_cons v220012110 (collectScores_cons v220012101 collectScores_nil)))) rfl

theorem t222010121 : readBoardAux P2 4 (⟨N2, N2, N2, N0, N1, N0, N1, N2, N1⟩ : Grid) P1 = some (ZP, none) :=
  rfl

theorem v220010121 : readBoardAux P2 5 (⟨N2, N2, N0, N0, N1, N0, N1, N2, N1⟩ : Grid) P2 = some (ZP, some M02) :=
  readBoardAux_step P2 4 (⟨N2, N2, N0, N0, N1, N0, N1, N2, N1⟩ : Grid) P2 [M02, M10, M12] rfl rfl
    (collectScores_cons t222010121 (collectScores_cons v220210121 (collectScores_cons v220012121 collectScores_nil))) rfl

theorem v220010120 : readBoardAux P2 6 (⟨N2, N2, N0, N0, N1, N0, N1, N2, N0⟩ : Grid) P1 = some (ZM, some M02) :=
  readBoardAux_step P2 5 (⟨N2, N2, N0, N0, N1, N0, N1, N2, N0⟩ : Grid) P1 [M02, M10, M12, M22] rfl rfl
    (collectScores_cons t221010120 (collectScores_cons v220110120 (collectScores_cons v220011120 (collectScores_cons v220010121 collectScores_nil)))) rfl

theorem t222010112 : readBoardAux P2 4 (⟨N2, N2, N2, N0, N1, N0, N1, N1, N2⟩ : Grid) P1 = some (ZP, none) :=
  rfl

theorem v220010112 : readBoardAux P2 5 (⟨N2, N2, N0, N0, N1, N0, N1, N1, N2⟩ : Grid) P2 = some (ZP, some M02) :=
  readBoardAux_step P2 4 (⟨N2, N2, N0, N0, N1, N0, N1, N1, N2⟩ : Grid) P2 [M02, M10, M12] rfl rfl
    (collectScores_cons t222010112 (collectScores_cons v220210112 (collectScores_cons v220012112 collectScores_nil))) rfl

theorem v220010102 : readBoardAux P2 6 (⟨N2, N2, N0, N0, N1, N0, N1, N0, N2⟩ : Grid) P1 = some (ZM, some M02) :=
  readBoardAux_step P2 5 (⟨N2, N2, N0, N0, N1, N0, N1, N0, N2⟩ : Grid) P1 [M02, M10, M12, M21] rfl rfl
    (collectScores_cons t221010102 (collectScores_cons v220110102 (collectScores_cons v220011102 (collectScores_cons v220010112 collectScores_nil)))) rfl

theorem v220010100 : readBoardAux P2 7 (⟨N2, N2, N0, N0, N1, N0, N1, N0, N0⟩ : Grid) P2 = some (ZP, some M02) :=
  readBoardAux_step P2 6 (⟨N2, N2, N0, N0, N1, N0, N1, N0, N0⟩ : Grid) P2 [M02, M10, M12, M21, M22] rfl rfl
    (collectScores_cons t222010100 (collectScores_cons v220210100 (collectScores_cons v220012100 (collectScores_cons v220010120 (collectScores_cons v220010102 collectScores_nil))))) rfl

theorem t222010010 : readBoardAux P2 6 (⟨N2, N2, N2, N0, N1, N0, N0, N1, N0⟩ : Grid) P1 = some (ZP, none) :=
  rfl

theorem t222210011 : readBoardAux P2 4 (⟨N2, N2, N2, N2, N1, N0, N0, N1, N1⟩ : Grid) P1 = some (ZP, none) :=
  rfl

theorem v220212011 : readBoardAux P2 4 (⟨N2, N2, N0, N2, N1, N2, N0, N1, N1⟩ : Grid) P1 = some (ZM, some M20) :=
  readBoardAux_step P2 3 (⟨N2, N2, N0, N2, N1, N2, N0, N1, N1⟩ : Grid) P1 [M02, M20] rfl rfl
    (collectScores_cons v221212011 (collectScores_cons t220212111 collectScores_nil)) rfl

theorem t220210211 : readBoardAux P2 4 (⟨N2, N2, N0, N2, N1, N0, N2, N1, N1⟩ : Grid) P1 = some (ZP, none) :=
  rfl

theorem v220210011 : readBoardAux P2 5 (⟨N2, N2, N0, N2, N1, N0, N0, N1, N1⟩ : Grid) P2 = some (ZP, some M02) :=
  readBoardAux_step P2 4 (⟨N2, N2, N0, N2, N1, N0, N0, N1, N1⟩ : Grid) P2 [M02, M12, M20] rfl rfl
    (collectScores_cons t222210011 (collectScores_cons v220212011 (collectScores_cons t220210211 collectScores_nil))) rfl

theorem v220210010 : readBoardAux P2 6 (⟨N2, N2, N0, N2, N1, N0, N0, N1, N0⟩ : Grid) P1 = some (ZP, some M02) :=
  readBoardAux_step P2 5 (⟨N2, N2, N0, N2, N1, N0, N0, N1, N0⟩ : Grid) P1 [M02, M12, M20, M22] rfl rfl
    (collectScores_cons v221210010 (collectScores_cons v220211010 (collectScores_cons v220210110 (collectScores_cons v220210011 collectScores_nil)))) rfl

theorem t222012011 : readBoardAux P2 4 (⟨N2, N2, N2, N0, N1, N2, N0, N1, N1⟩ : Grid) P1 = some (ZP, none) :=
  rfl

theorem v220012211 : readBoardAux P2 4 (⟨N2, N2, N0, N0, N1, N2, N2, N1, N1⟩ : Grid) P1 = some (ZP, some M02) :=
  readBoardAux_step P2 3 (⟨N2, N2, N0, N0, N1, N2, N2, N1, N1⟩ : Grid) P1 [M02, M10] rfl rfl
    (collectScores_cons v221012211 (collectScores_cons v220112211 collectScores_nil)) rfl

theorem v220012011 : readBoardAux P2 5 (⟨N2, N2, N0, N0, N1, N2, N0, N1, N1⟩ : Grid) P2 = some (ZP, some M02) :=
  readBoardAux_step P2 4 (⟨N2, N2, N0, N0, N1, N2, N0, N1, N1⟩ : Grid) P2 [M02, M10, M20] rfl rfl
    (collectScores_cons t222012011 (collectScores_cons v220212011 (collectScores_cons v220012211 collectScores_nil))) rfl

theorem v220012010 : readBoardAux P2 6 (⟨N2, N2, N0, N0, N1, N2, N0, N1, N0⟩ : Grid) P1 = some (Z0, some M02) :=
  readBoardAux_step P2 5 (⟨N2, N2, N0, N0, N1, N2, N0, N1, N0⟩ : Grid) P1 [M02, M10, M20, M22] rfl rfl
    (collectScores_cons v221012010 (collectScores_cons v220112010 (collectScores_cons v220012110 (collectScores_cons v220012011 collectScores_nil)))) rfl

theorem t222010211 : readBoardAux P2 4 (⟨N2, N2, N2, N0, N1, N0, N2, N1, N1⟩ : Grid) P1 = some (ZP, none) :=
  rfl

theorem v220010211 : readBoardAux P2 5 (⟨N2, N2, N0, N0, N1, N0, N2, N1, N1⟩ : Grid) P2 = some (ZP, some M02) :=
  readBoardAux_step P2 4 (⟨N2, N2, N0, N0, N1, N0, N2, N1, N1⟩ : Grid) P2 [M02, M10, M12] rfl rfl
    (collectScores_cons t222010211 (collectScores_cons t220210211 (collectScores_cons v220012211 collectScores_nil))) rfl

theorem v220010210 : readBoardAux P2 6 (⟨N2, N2, N0, N0, N1, N0, N2, N1, N0⟩ : Grid) P1 = some (ZP, some M02) :=
  readBoardAux_step P2 5 (⟨N2, N2, N0, N0, N1, N0, N2, N1, N0⟩ : Grid) P1 [M02, M10, M12, M22] rfl rfl
    (collectScores_cons v221010210 (collectScores_cons v220110210 (collectScores_cons v220011210 (collectScores_cons v220010211 collectScores_nil)))) rfl

theorem v220010012 : readBoardAux P2 6 (⟨N2, N2, N0, N0, N1, N0, N0, N1, N2⟩ : Grid) P1 = some (Z0, some M02) :=
  readBoardAux_step P2 5 (⟨N2, N2, N0, N0, N1, N0, N0, N1, N2⟩ : Grid) P1 [M02, M10, M12, M20] rfl rfl
    (collectScores_cons v221010012 (collectScores_cons v220110012 (collectScores_cons v220011012 (collectScores_cons v220010112 collectScores_nil)))) rfl

theorem v220010010 : readBoardAux P2 7 (⟨N2, N2, N0, N0, N1, N0, N0, N1, N0⟩ : Grid) P2 = some (ZP, some M02) :=
  readBoardAux_step P2 6 (⟨N2, N2, N0, N0, N1, N0, N0, N1, N0⟩ : Grid) P2 [M02, M10, M12, M20, M22] rfl rfl
    (collectScores_cons t222010010 (collectScores_cons v220210010 (collectScores_cons v220012010 (collectScores_cons v220010210 (collectScores_cons v220010012 collectScores_nil))))) rfl

theorem t222010001 : readBoardAux P2 6 (⟨N2, N2, N2, N0, N1, N0, N0, N0, N1⟩ : Grid) P1 = some (ZP, none) :=
  rfl

theorem v220210001 : readBoardAux P2 6 (⟨N2, N2, N0, N2, N1, N0, N0, N0, N1⟩ : Grid) P1 = some (ZP, some M02) :=
  readBoardAux_step P2 5 (⟨N2, N2, N0, N2, N1, N0, N0, N0, N1⟩ : Grid) P1 [M02, M12, M20, M21] rfl rfl
    (collectScores_cons v221210001 (collectScores_cons v220211001 (collectScores_cons v220210101 (collectScores_cons v220210011 collectScores_nil)))) rfl

theorem v220012001 : readBoardAux P2 6 (⟨N2, N2, N0, N0, N1, N2, N0, N0, N1⟩ : Grid) P1 = some (Z0, some M02) :=
  readBoardAux_step P2 5 (⟨N2, N2, N0, N0, N1, N2, N0, N0, N1⟩ : Grid) P1 [M02, M10, M20, M21] rfl rfl
    (collectScores_cons v221012001 (collectScores_cons v220112001 (collectScores_cons v220012101 (collectScores_cons v220012011 collectScores_nil)))) rfl

theorem v220010201 : readBoardAux P2 6 (⟨N2, N2, N0, N0, N1, N0, N2, N0, N1⟩ : Grid) P1 = some (ZP, some M02) :=
  readBoardAux_step P2 5 (⟨N2, N2, N0, N0, N1, N0, N2, N0, N1⟩ : Grid) P1 [M02, M10, M12, M21] rfl rfl
    (collectScores_cons v221010201 (collectScores_cons v220110201 (collectScores_cons v220011201 (collectScores_cons v220010211 collectScores_nil)))) rfl

theorem v220010021 : readBoardAux P2 6 (⟨N2, N2, N0, N0, N1, N0, N0, N2, N1⟩ : Grid) P1 = some (ZM, some M02) :=
  readBoardAux_step P2 5 (⟨N2, N2, N0, N0, N1, N0, N0, N2, N1⟩ : Grid) P1 [M02, M10, M12, M20] rfl rfl
    (collectScores_cons v221010021 (collectScores_cons v220110021 (collectScores_cons v220011021 (collectScores_cons v220010121 collectScores_nil)))) rfl

theorem v220010001 : readBoardAux P2 7 (⟨N2, N2, N0, N0, N1, N0, N0, N0, N1⟩ : Grid) P2 = some (ZP, some M02) :=
  readBoardAux_step P2 6 (⟨N2, N2, N0, N0, N1, N0, N0, N0, N1⟩ : Grid) P2 [M02, M10, M12, M20, M21] rfl rfl
    (collectScores_cons t222010001 (collectScores_cons v220210001 (collectScores_cons v220012001 (collectScores_cons v220010201 (collectScores_cons v220010021 collectScores_nil))))) rfl

theorem v220010000 : readBoardAux P2 8 (⟨N2, N2, N0, N0, N1, N0, N0, N0, N0⟩ : Grid) P1 = some (Z0, some M02) :=
  readBoardAux_step P2 7 (⟨N2, N2, N0, N0, N1, N0, N0, N0, N0⟩ : Grid) P1 [M02, M10, M12, M20, M21, M22] rfl rfl
    (collectScores_cons v221010000 (collectScores_cons v220110000 (collectScores_cons v220011000 (collectScores_cons v220010100 (collectScores_cons v220010010 (collectScores_cons v220010001 collectScores_nil)))))) rfl

theorem v202211121 : readBoardAux P2 3 (⟨N2, N0, N2, N2, N1, N1, N1, N2, N1⟩ : Grid) P2 = some (ZP, some M01) :=
  readBoardAux_step P2 2 (⟨N2, N0, N2, N2, N1, N1, N1, N2, N1⟩ : Grid) P2 [M01] rfl rfl
    (collectScores_cons t222211121 collectScores_nil) rfl

theorem v202211120 : readBoardAux P2 4 (⟨N2, N0, N2, N2, N1, N1, N1, N2, N0⟩ : Grid) P1 = some (Z0, some M01) :=
  readBoardAux_step P2 3 (⟨N2, N0, N2, N2, N1, N1, N1, N2, N0⟩ : Grid) P1 [M01, M22] rfl rfl
    (collectScores_cons v212211120 (collectScores_cons v202211121 collectScores_nil)) rfl

theorem v202211112 : readBoardAux P2 3 (⟨N2, N0, N2, N2, N1, N1, N1, N1, N2⟩ : Grid) P2 = some (ZP, some M01) :=
  readBoardAux_step P2 2 (⟨N2, N0, N2, N2, N1, N1, N1, N1, N2⟩ : Grid) P2 [M01] rfl rfl
    (collectScores_cons t222211112 collectScores_nil) rfl

theorem v202211102 : readBoardAux P2 4 (⟨N2, N0, N2, N2, N1, N1, N1, N0, N2⟩ : Grid) P1 = some (Z0, some M01) :=
  readBoardAux_step P2 3 (⟨N2, N0, N2, N2, N1, N1, N1, N0, N2⟩ : Grid) P1 [M01, M21] rfl rfl
    (collectScores_cons v212211102 (collectScores_cons v202211112 collectScores_nil)) rfl

theorem v202211100 : readBoardAux P2 5 (⟨N2, N0, N2, N2, N1, N1, N1, N0, N0⟩ : Grid) P2 = some (ZP, some M01) :=
  readBoardAux_step P2 4 (⟨N2, N0, N2, N2, N1, N1, N1, N0, N0⟩ : Grid) P2 [M01, M21, M22] rfl rfl
    (collectScores_cons t222211100 (collectScores_cons v202211120 (collectScores_cons v202211102 collectScores_nil))) rfl

theorem t202211210 : readBoardAux P2 4 (⟨N2, N0, N2, N2, N1, N1, N2, N1, N0⟩ : Grid) P1 = some (ZP, none) :=
  rfl

theorem v202211012 : readBoardAux P2 4 (⟨N2, N0, N2, N2, N1, N1, N0, N1, N2⟩ : Grid) P1 = some (ZM, some M01) :=
  readBoardAux_step P2 3 (⟨N2, N0, N2, N2, N1, N1, N0, N1, N2⟩ : Grid) P1 [M01, M20] rfl rfl
    (collectScores_cons t212211012 (collectScores_cons v202211112 collectScores_nil)) rfl

theorem v202211010 : readBoardAux P2 5 (⟨N2, N0, N2, N2, N1, N1, N0, N1, N0⟩ : Grid) P2 = some (ZP, some M01) :=
  readBoardAux_step P2 4 (⟨N2, N0, N2, N2, N1, N1, N0, N1, N0⟩ : Grid) P2 [M01, M20, M22] rfl rfl
    (collectScores_cons t222211010 (collectScores_cons t202211210 (collectScores_cons v202211012 collectScores_nil))) rfl

theorem t202211201 : readBoardAux P2 4 (⟨N2, N0, N2, N2, N1, N1, N2, N0, N1⟩ : Grid) P1 = some (ZP, none) :=
  rfl

theorem v202211021 : readBoardAux P2 4 (⟨N2, N0, N2, N2, N1, N1, N0, N2, N1⟩ : Grid) P1 = some (ZP, some M01) :=
  readBoardAux_step P2 3 (⟨N2, N0, N2, N2, N1, N1, N0, N2, N1⟩ : Grid) P1 [M01, M20] rfl rfl
    (collectScores_cons v212211021 (collectScores_cons v202211121 collectScores_nil)) rfl

theorem v202211001 : readBoardAux P2 5 (⟨N2, N0, N2, N2, N1, N1, N0, N0, N1⟩ : Grid) P2 = some (ZP, some M01) :=
  readBoardAux_step P2 4 (⟨N2, N0, N2, N2, N1, N1, N0, N0, N1⟩ : Grid) P2 [M01, M20, M21] rfl rfl
    (collectScores_cons t222211001 (collectScores_cons t202211201 (collectScores_cons v202211021 collectScores_nil))) rfl

theorem v202211000 : readBoardAux P2 6 (⟨N2, N0, N2, N2, N1, N1, N0, N0, N0⟩ : Grid) P1 = some (ZP, some M01) :=
  readBoardAux_step P2 5 (⟨N2, N0, N2, N2, N1, N1, N0, N0, N0⟩ : Grid) P1 [M01, M20, M21, M22] rfl rfl
    (collectScores_cons v212211000 (collectScores_cons v202211100 (collectScores_cons v202211010 (collectScores_cons v202211001 collectScores_nil)))) rfl

theorem v202011212 : readBoardAux P2 4 (⟨N2, N0, N2, N0, N1, N1, N2, N1, N2⟩ : Grid) P1 = some (ZM, some M01) :=
  readBoardAux_step P2 3 (⟨N2, N0, N2, N0, N1, N1, N2, N1, N2⟩ : Grid) P1 [M01, M10] rfl rfl
    (collectScores_cons t212011212 (collectScores_cons t202111212 collectScores_nil)) rfl

theorem v202011210 : readBoardAux P2 5 (⟨N2, N0, N2, N0, N1, N1, N2, N1, N0⟩ : Grid) P2 = some (ZP, some M01) :=
  readBoardAux_step P2 4 (⟨N2, N0, N2, N0, N1, N1, N2, N1, N0⟩ : Grid) P2 [M01, M10, M22] rfl rfl
    (collectScores_cons t222011210 (collectScores_cons t202211210 (collectScores_cons v202011212 collectScores_nil))) rfl

theorem v202011221 : readBoardAux P2 4 (⟨N2, N0, N2, N0, N1, N1, N2, N2, N1⟩ : Grid) P1 = some (ZM, some M10) :=
  readBoardAux_step P2 3 (⟨N2, N0, N2, N0, N1, N1, N2, N2, N1⟩ : Grid) P1 [M01, M10] rfl rfl
    (collectScores_cons v212011221 (collectScores_cons t202111221 collectScores_nil)) rfl

theorem v202011201 : readBoardAux P2 5 (⟨N2, N0, N2, N0, N1, N1, N2, N0, N1⟩ : Grid) P2 = some (ZP, some M01) :=
  readBoardAux_step P2 4 (⟨N2, N0, N2, N0, N1, N1, N2, N0, N1⟩ : Grid) P2 [M01, M10, M21] rfl rfl
    (collectScores_cons t222011201 (collectScores_cons t202211201 (collectScores_cons v202011221 collectScores_nil))) rfl

theorem v202011200 : readBoardAux P2 6 (⟨N2, N0, N2, N0, N1, N1, N2, N0, N0⟩ : Grid) P1 = some (ZM, some M10) :=
  readBoardAux_step P2 5 (⟨N2, N0, N2, N0, N1, N1, N2, N0, N0⟩ : Grid) P1 [M01, M10, M21, M22] rfl rfl
    (collectScores_cons v212011200 (collectScores_cons t202111200 (collectScores_cons v202011210 (collectScores_cons v202011201 collectScores_nil)))) rfl

theorem v202011122 : readBoardAux P2 4 (⟨N2, N0, N2, N0, N1, N1, N1, N2, N2⟩ : Grid) P1 = some (ZM, some M10) :=
  readBoardAux_step P2 3 (⟨N2, N0, N2, N0, N1, N1, N1, N2, N2⟩ : Grid) P1 [M01, M10] rfl rfl
    (collectScores_cons v212011122 (collectScores_cons t202111122 collectScores_nil)) rfl

theorem v202011120 : readBoardAux P2 5 (⟨N2, N0, N2, N0, N1, N1, N1, N2, N0⟩ : Grid) P2 = some (ZP, some M01) :=
  readBoardAux_step P2 4 (⟨N2, N0, N2, N0, N1, N1, N1, N2, N0⟩ : Grid) P2 [M01, M10, M22] rfl rfl
    (collectScores_cons t222011120 (collectScores_cons v202211120 (collectScores_cons v202011122 collectScores_nil))) rfl

theorem v202011021 : readBoardAux P2 5 (⟨N2, N0, N2, N0, N1, N1, N0, N2, N1⟩ : Grid) P2 = some (ZP, some M01) :=
  readBoardAux_step P2 4 (⟨N2, N0, N2, N0, N1, N1, N0, N2, N1⟩ : Grid) P2 [M01, M10, M20] rfl rfl
    (collectScores_cons t222011021 (collectScores_cons v202211021 (collectScores_cons v202011221 collectScores_nil))) rfl

theorem v202011020 : readBoardAux P2 6 (⟨N2, N0, N2, N0, N1, N1, N0, N2, N0⟩ : Grid) P1 = some (ZM, some M10) :=
  readBoardAux_step P2 5 (⟨N2, N0, N2, N0, N1, N1, N0, N2, N0⟩ : Grid) P1 [M01, M10, M20, M22] rfl rfl
    (collectScores_cons v212011020 (collectScores_cons t202111020 (collectScores_cons v202011120 (collectScores_cons v202011021 collectScores_nil)))) rfl

theorem v202011102 : readBoardAux P2 5 (⟨N2, N0, N2, N0, N1, N1, N1, N0, N2⟩ : Grid) P2 = some (ZP, some M01) :=
  readBoardAux_step P2 4 (⟨N2, N0, N2, N0, N1, N1, N1, N0, N2⟩ : Grid) P2 [M01, M10, M21] rfl rfl
    (collectScores_cons t222011102 (collectScores_cons v202211102 (collectScores_cons v202011122 collectScores_nil))) rfl

theorem v202011012 : readBoardAux P2 5 (⟨N2, N0, N2, N0, N1, N1, N0, N1, N2⟩ : Grid) P2 = some (ZP, some M01) :=
  readBoardAux_step P2 4 (⟨N2, N0, N2, N0, N1, N1, N0, N1, N2⟩ : Grid) P2 [M01, M10, M20] rfl rfl
    (collectScores_cons t222011012 (collectScores_cons v202211012 (collectScores_cons v202011212 collectScores_nil))) rfl

theorem v202011002 : readBoardAux P2 6 (⟨N2, N0, N2, N0, N1, N1, N0, N0, N2⟩ : Grid) P1 = some (ZM, some M01) :=
  readBoardAux_step P2 5 (⟨N2, N0, N2, N0, N1, N1, N0, N0, N2⟩ : Grid) P1 [M01, M10, M20, M21] rfl rfl
    (collectScores_cons v212011002 (collectScores_cons t202111002 (collectScores_cons v202011102 (collectScores_cons v202011012 collectScores_nil)))) rfl

theorem v202011000 : readBoardAux P2 7 (⟨N2, N0, N2, N0, N1, N1, N0, N0, N0⟩ : Grid) P2 = some (ZP, some M01) :=
  readBoardAux_step P2 6 (⟨N2, N0, N2, N0, N1, N1, N0, N0, N0⟩ : Grid) P2 [M01, M10, M20, M21, M22] rfl rfl
    (collectScores_cons t222011000 (collectScores_cons v202211000 (collectScores_cons v202011200 (collectScores_cons v202011020 (collectScores_cons v202011002 collectScores_nil))))) rfl

theorem t202212111 : readBoardAux P2 3 (⟨N2, N0, N2, N2, N1, N2, N1, N1, N1⟩ : Grid) P2 = some (ZM, none) :=
  rfl

theorem v202212110 : readBoardAux P2 4 (⟨N2, N0, N2, N2, N1, N2, N1, N1, N0⟩ : Grid) P1 = some (ZM, some M01) :=
  readBoardAux_step P2 3 (⟨N2, N0, N2, N2, N1, N2, N1, N1, N0⟩ : Grid) P1 [M01, M22] rfl rfl
    (collectScores_cons t212212110 (collectScores_cons t202212111 collectScores_nil)) rfl

theorem v202210112 : readBoardAux P2 4 (⟨N2, N0, N2, N2, N1, N0, N1, N1, N2⟩ : Grid) P1 = some (ZM, some M01) :=
  readBoardAux_step P2 3 (⟨N2, N0, N2, N2, N1, N0, N1, N1, N2⟩ : Grid) P1 [M01, M12] rfl rfl
    (collectScores_cons t212210112 (collectScores_cons v202211112 collectScores_nil)) rfl

theorem v202210110 : readBoardAux P2 5 (⟨N2, N0, N2, N2, N1, N0, N1, N1, N0⟩ : Grid) P2 = some (ZP, some M01) :=
  readBoardAux_step P2 4 (⟨N2, N0, N2, N2, N1, N0, N1, N1, N0⟩ : Grid) P2 [M01, M12, M22] rfl rfl
    (collectScores_cons t222210110 (collectScores_cons v202212110 (collectScores_cons v202210112 collectScores_nil))) rfl

theorem v202212101 : readBoardAux P2 4 (⟨N2, N0, N2, N2, N1, N2, N1, N0, N1⟩ : Grid) P1 = some (ZM, some M21) :=
  readBoardAux_step P2 3 (⟨N2, N0, N2, N2, N1, N2, N1, N0, N1⟩ : Grid) P1 [M01, M21] rfl rfl
    (collectScores_cons v212212101 (collectScores_cons t202212111 collectScores_nil)) rfl

theorem v202210121 : readBoardAux P2 4 (⟨N2, N0, N2, N2, N1, N0, N1, N2, N1⟩ : Grid) P1 = some (Z0, some M01) :=
  readBoardAux_step P2 3 (⟨N2, N0, N2, N2, N1, N0, N1, N2, N1⟩ : Grid) P1 [M01, M12] rfl rfl
    (collectScores_cons v212210121 (collectScores_cons v202211121 collectScores_nil)) rfl

theorem v202210101 : readBoardAux P2 5 (⟨N2, N0, N2, N2, N1, N0, N1, N0, N1⟩ : Grid) P2 = some (ZP, some M01) :=
  readBoardAux_step P2 4 (⟨N2, N0, N2, N2, N1, N0, N1, N0, N1⟩ : Grid) P2 [M01, M12, M21] rfl rfl
    (collectScores_cons t222210101 (collectScores_cons v202212101 (collectScores_cons v202210121 collectScores_nil))) rfl

theorem v202210100 : readBoardAux P2 6 (⟨N2, N0, N2, N2, N1, N0, N1, N0, N0⟩ : Grid) P1 = some (Z0, some M01) :=
  readBoardAux_step P2 5 (⟨N2, N0, N2, N2, N1, N0, N1, N0, N0⟩ : Grid) P1 [M01, M12, M21, M22] rfl rfl
    (collectScores_cons v212210100 (collectScores_cons v202211100 (collectScores_cons v202210110 (collectScores_cons v202210101 collectScores_nil)))) rfl

theorem t202012112 : readBoardAux P2 4 (⟨N2, N0, N2, N0, N1, N2, N1, N1, N2⟩ : Grid) P1 = some (ZP, none) :=
  rfl

theorem v202012110 : readBoardAux P2 5 (⟨N2, N0, N2, N0, N1, N2, N1, N1, N0⟩ : Grid) P2 = some (ZP, some M01) :=
  readBoardAux_step P2 4 (⟨N2, N0, N2, N0, N1, N2, N1, N1, N0⟩ : Grid) P2 [M01, M10, M22] rfl rfl
    (collectScores_cons t222012110 (collectScores_cons v202212110 (collectScores_cons t202012112 collectScores_nil))) rfl

theorem v202012121 : readBoardAux P2 4 (⟨N2, N0, N2, N0, N1, N2, N1, N2, N1⟩ : Grid) P1 = some (Z0, some M01) :=
  readBoardAux_step P2 3 (⟨N2, N0, N2, N0, N1, N2, N1, N2, N1⟩ : Grid) P1 [M01, M10] rfl rfl
    (collectScores_cons v212012121 (collectScores_cons v202112121 collectScores_nil)) rfl

theorem v202012101 : readBoardAux P2 5 (⟨N2, N0, N2, N0, N1, N2, N1, N0, N1⟩ : Grid) P2 = some (ZP, some M01) :=
  readBoardAux_step P2 4 (⟨N2, N0, N2, N0, N1, N2, N1, N0, N1⟩ : Grid) P2 [M01, M10, M21] rfl rfl
    (collectScores_cons t222012101 (collectScores_cons v202212101 (collectScores_cons v202012121 collectScores_nil))) rfl

theorem v202012100 : readBoardAux P2 6 (⟨N2, N0, N2, N0, N1, N2, N1, N0, N0⟩ : Grid) P1 = some (ZP, some M01) :=
  readBoardAux_step P2 5 (⟨N2, N0, N2, N0, N1, N2, N1, N0, N0⟩ : Grid) P1 [M01, M10, M21, M22] rfl rfl
    (collectScores_cons v212012100 (collectScores_cons v202112100 (collectScores_cons v202012110 (collectScores_cons v202012101 collectScores_nil)))) rfl

theorem v202010121 : readBoardAux P2 5 (⟨N2, N0, N2, N0, N1, N0, N1, N2, N1⟩ : Grid) P2 = some (ZP, some M01) :=
  readBoardAux_step P2 4 (⟨N2, N0, N2, N0, N1, N0, N1, N2, N1⟩ : Grid) P2 [M01, M10, M12] rfl rfl
    (collectScores_cons t222010121 (collectScores_cons v202210121 (collectScores_cons v202012121 collectScores_nil))) rfl

theorem v202010120 : readBoardAux P2 6 (⟨N2, N0, N2, N0, N1, N0, N1, N2, N0⟩ : Grid) P1 = some (Z0, some M01) :=
  readBoardAux_step P2 5 (⟨N2, N0, N2, N0, N1, N0, N1, N2, N0⟩ : Grid) P1 [M01, M10, M12, M22] rfl rfl
    (collectScores_cons v212010120 (collectScores_cons v202110120 (collectScores_cons v202011120 (collectScores_cons v202010121 collectScores_nil)))) rfl

theorem v202010112 : readBoardAux P2 5 (⟨N2, N0, N2, N0, N1, N0, N1, N1, N2⟩ : Grid) P2 = some (ZP, some M01) :=
  readBoardAux_step P2 4 (⟨N2, N0, N2, N0, N1, N0, N1, N1, N2⟩ : Grid) P2 [M01, M10, M12] rfl rfl
    (collectScores_cons t222010112 (collectScores_cons v202210112 (collectScores_cons t202012112 collectScores_nil))) rfl

theorem v202010102 : readBoardAux P2 6 (⟨N2, N0, N2, N0, N1, N0, N1, N0, N2⟩ : Grid) P1 = some (ZP, some M01) :=
  readBoardAux_step P2 5 (⟨N2, N0, N2, N0, N1, N0, N1, N0, N2⟩ : Grid) P1 [M01, M10, M12, M21] rfl rfl
    (collectScores_cons v212010102 (collectScores_cons v202110102 (collectScores_cons v202011102 (collectScores_cons v202010112 collectScores_nil)))) rfl

theorem v202010100 : readBoardAux P2 7 (⟨N2, N0, N2, N0, N1, N0, N1, N0, N0⟩ : Grid) P2 = some (ZP, some M01) :=
  readBoardAux_step P2 6 (⟨N2, N0, N2, N0, N1, N0, N1, N0, N0⟩ : Grid) P2 [M01, M10, M12, M21, M22] rfl rfl
    (collectScores_cons t222010100 (collectScores_cons v202210100 (collectScores_cons v202012100 (collectScores_cons v202010120 (collectScores_cons v202010102 collectScores_nil))))) rfl

theorem v202212011 : readBoardAux P2 4 (⟨N2, N0, N2, N2, N1, N2, N0, N1, N1⟩ : Grid) P1 = some (ZM, some M01) :=
  readBoardAux_step P2 3 (⟨N2, N0, N2, N2, N1, N2, N0, N1, N1⟩ : Grid) P1 [M01, M20] rfl rfl
    (collectScores_cons t212212011 (collectScores_cons t202212111 collectScores_nil)) rfl

theorem t202210211 : readBoardAux P2 4 (⟨N2, N0, N2, N2, N1, N0, N2, N1, N1⟩ : Grid) P1 = some (ZP, none) :=
  rfl

theorem v202210011 : readBoardAux P2 5 (⟨N2, N0, N2, N2, N1, N0, N0, N1, N1⟩ : Grid) P2 = some (ZP, some M01) :=
  readBoardAux_step P2 4 (⟨N2, N0, N2, N2, N1, N0, N0, N1, N1⟩ : Grid) P2 [M01, M12, M20] rfl rfl
    (collectScores_cons t222210011 (collectScores_cons v202212011 (collectScores_cons t202210211 collectScores_nil))) rfl

theorem v202210010 : readBoardAux P2 6 (⟨N2, N0, N2, N2, N1, N0, N0, N1, N0⟩ : Grid) P1 = some (ZM, some M01) :=
  readBoardAux_step P2 5 (⟨N2, N0, N2, N2, N1, N0, N0, N1, N0⟩ : Grid) P1 [M01, M12, M20, M22] rfl rfl
    (collectScores_cons t212210010 (collectScores_cons v202211010 (collectScores_cons v202210110 (collectScores_cons v202210011 collectScores_nil)))) rfl

theorem v202012211 : readBoardAux P2 4 (⟨N2, N0, N2, N0, N1, N2, N2, N1, N1⟩ : Grid) P1 = some (ZM, some M01) :=
  readBoardAux_step P2 3 (⟨N2, N0, N2, N0, N1, N2, N2, N1, N1⟩ : Grid) P1 [M01, M10] rfl rfl
    (collectScores_cons t212012211 (collectScores_cons v202112211 collectScores_nil)) rfl

theorem v202012011 : readBoardAux P2 5 (⟨N2, N0, N2, N0, N1, N2, N0, N1, N1⟩ : Grid) P2 = some (ZP, some M01) :=
  readBoardAux_step P2 4 (⟨N2, N0, N2, N0, N1, N2, N0, N1, N1⟩ : Grid) P2 [M01, M10, M20] rfl rfl
    (collectScores_cons t222012011 (collectScores_cons v202212011 (collectScores_cons v202012211 collectScores_nil))) rfl

theorem v202012010 : readBoardAux P2 6 (⟨N2, N0, N2, N0, N1, N2, N0, N1, N0⟩ : Grid) P1 = some (ZM, some M01) :=
  readBoardAux_step P2 5 (⟨N2, N0, N2, N0, N1, N2, N0, N1, N0⟩ : Grid) P1 [M01, M10, M20, M22] rfl rfl
    (collectScores_cons t212012010 (collectScores_cons v202112010 (collectScores_cons v202012110 (collectScores_cons v202012011 collectScores_nil)))) rfl

theorem v202010211 : readBoardAux P2 5 (⟨N2, N0, N2, N0, N1, N0, N2, N1, N1⟩ : Grid) P2 = some (ZP, some M01) :=
  readBoardAux_step P2 4 (⟨N2, N0, N2, N0, N1, N0, N2, N1, N1⟩ : Grid) P2 [M01, M10, M12] rfl rfl
    (collectScores_cons t222010211 (collectScores_cons t202210211 (collectScores_cons v202012211 collectScores_nil))) rfl

theorem v202010210 : readBoardAux P2 6 (⟨N2, N0, N2, N0, N1, N0, N2, N1, N0⟩ : Grid) P1 = some (ZM, some M01) :=
  readBoardAux_step P2 5 (⟨N2, N0, N2, N0, N1, N0, N2, N1, N0⟩ : Grid) P1 [M01, M10, M12, M22] rfl rfl
    (collectScores_cons t212010210 (collectScores_cons v202110210 (collectScores_cons v202011210 (collectScores_cons v202010211 collectScores_nil)))) rfl

theorem v202010012 : readBoardAux P2 6 (⟨N2, N0, N2, N0, N1, N0, N0, N1, N2⟩ : Grid) P1 = some (ZM, some M01) :=
  readBoardAux_step P2 5 (⟨N2, N0, N2, N0, N1, N0, N0, N1, N2⟩ : Grid) P1 [M01, M10, M12, M20] rfl rfl
    (collectScores_cons t212010012 (collectScores_cons v202110012 (collectScores_cons v202011012 (collectScores_cons v202010112 collectScores_nil)))) rfl

theorem v202010010 : readBoardAux P2 7 (⟨N2, N0, N2, N0, N1, N0, N0, N1, N0⟩ : Grid) P2 = some (ZP, some M01) :=
  readBoardAux_step P2 6 (⟨N2, N0, N2, N0, N1, N0, N0, N1, N0⟩ : Grid) P2 [M01, M10, M12, M20, M22] rfl rfl
    (collectScores_cons t222010010 (collectScores_cons v202210010 (collectScores_cons v202012010 (collectScores_cons v202010210 (collectScores_cons v202010012 collectScores_nil))))) rfl

theorem v202210001 : readBoardAux P2 6 (⟨N2, N0, N2, N2, N1, N0, N0, N0, N1⟩ : Grid) P1 = some (ZP, some M01) :=
  readBoardAux_step P2 5 (⟨N2, N0, N2, N2, N1, N0, N0, N0, N1⟩ : Grid) P1 [M01, M12, M20, M21] rfl rfl
    (collectScores_cons v212210001 (collectScores_cons v202211001 (collectScores_cons v202210101 (collectScores_cons v202210011 collectScores_nil)))) rfl

theorem v202012001 : readBoardAux P2 6 (⟨N2, N0, N2, N0, N1, N2, N0, N0, N1⟩ : Grid) P1 = some (Z0, some M01) :=
  readBoardAux_step P2 5 (⟨N2, N0, N2, N0, N1, N2, N0, N0, N1⟩ : Grid) P1 [M01, M10, M20, M21] rfl rfl
    (collectScores_cons v212012001 (collectScores_cons v202112001 (collectScores_cons v202012101 (collectScores_cons v202012011 collectScores_nil)))) rfl

theorem v202010201 : readBoardAux P2 6 (⟨N2, N0, N2, N0, N1, N0, N2, N0, N1⟩ : Grid) P1 = some (ZP, some M01) :=
  readBoardAux_step P2 5 (⟨N2, N0, N2, N0, N1, N0, N2, N0, N1⟩ : Grid) P1 [M01, M10, M12, M21] rfl rfl
    (collectScores_cons v212010201 (collectScores_cons v202110201 (collectScores_cons v202011201 (collectScores_cons v202010211 collectScores_nil)))) rfl

theorem v202010021 : readBoardAux P2 6 (⟨N2, N0, N2, N0, N1, N0, N0, N2, N1⟩ : Grid) P1 = some (Z0, some M01) :=
  readBoardAux_step P2 5 (⟨N2, N0, N2, N0, N1, N0, N0, N2, N1⟩ : Grid) P1 [M01, M10, M12, M20] rfl rfl
    (collectScores_cons v212010021 (collectScores_cons v202110021 (collectScores_cons v202011021 (collectScores_cons v202010121 collectScores_nil)))) rfl

theorem v202010001 : readBoardAux P2 7 (⟨N2, N0, N2, N0, N1, N0, N0, N0, N1⟩ : Grid) P2 = some (ZP, some M01) :=
  readBoardAux_step P2 6 (⟨N2, N0, N2, N0, N1, N0, N0, N0, N1⟩ : Grid) P2 [M01, M10, M12, M20, M21] rfl rfl
    (collectScores_cons t222010001 (collectScores_cons v202210001 (collectScores_cons v202012001 (collectScores_cons v202010201 (collectScores_cons v202010021 collectScores_nil))))) rfl

theorem v202010000 : readBoardAux P2 8 (⟨N2, N0, N2, N0, N1, N0, N0, N0, N0⟩ : Grid) P1 = some (Z0, some M01) :=
  readBoardAux_step P2 7 (⟨N2, N0, N2, N0, N1, N0, N0, N0, N0⟩ : Grid) P1 [M01, M10, M12, M20, M21, M22] rfl rfl
    (collectScores_cons v212010000 (collectScores_cons v202110000 (collectScores_cons v202011000 (collectScores_cons v202010100 (collectScores_cons v202010010 (collectScores_cons v202010001 collectScores_nil)))))) rfl

theorem t200211200 : readBoardAux P2 6 (⟨N2, N0, N0, N2, N1, N1, N2, N0, N0⟩ : Grid) P1 = some (ZP, none) :=
  rfl

theorem v200211122 : readBoardAux P2 4 (⟨N2, N0, N0, N2, N1, N1, N1, N2, N2⟩ : Grid) P1 = some (ZM, some M02) :=
  readBoardAux_step P2 3 (⟨N2, N0, N0, N2, N1, N1, N1, N2, N2⟩ : Grid) P1 [M01, M02] rfl rfl
    (collectScores_cons v210211122 (collectScores_cons t201211122 collectScores_nil)) rfl

theorem v200211120 : readBoardAux P2 5 (⟨N2, N0, N0, N2, N1, N1, N1, N2, N0⟩ : Grid) P2 = some (Z0, some M02) :=
  readBoardAux_step P2 4 (⟨N2, N0, N0, N2, N1, N1, N1, N2, N0⟩ : Grid) P2 [M01, M02, M22] rfl rfl
    (collectScores_cons v220211120 (collectScores_cons v202211120 (collectScores_cons v200211122 collectScores_nil))) rfl

theorem t200211221 : readBoardAux P2 4 (⟨N2, N0, N0, N2, N1, N1, N2, N2, N1⟩ : Grid) P1 = some (ZP, none) :=
  rfl

theorem v200211021 : readBoardAux P2 5 (⟨N2, N0, N0, N2, N1, N1, N0, N2, N1⟩ : Grid) P2 = some (ZP, some M02) :=
  readBoardAux_step P2 4 (⟨N2, N0, N0, N2, N1, N1, N0, N2, N1⟩ : Grid) P2 [M01, M02, M20] rfl rfl
    (collectScores_cons v220211021 (collectScores_cons v202211021 (collectScores_cons t200211221 collectScores_nil))) rfl

theorem v200211020 : readBoardAux P2 6 (⟨N2, N0, N0, N2, N1, N1, N0, N2, N0⟩ : Grid) P1 = some (Z0, some M20) :=
  readBoardAux_step P2 5 (⟨N2, N0, N0, N2, N1, N1, N0, N2, N0⟩ : Grid) P1 [M01, M02, M20, M22] rfl rfl
    (collectScores_cons v210211020 (collectScores_cons v201211020 (collectScores_cons v200211120 (collectScores_cons v200211021 collectScores_nil)))) rfl

theorem v200211102 : readBoardAux P2 5 (⟨N2, N0, N0, N2, N1, N1, N1, N0, N2⟩ : Grid) P2 = some (Z0, some M02) :=
  readBoardAux_step P2 4 (⟨N2, N0, N0, N2, N1, N1, N1, N0, N2⟩ : Grid) P2 [M01, M02, M21] rfl rfl
    (collectScores_cons v220211102 (collectScores_cons v202211102 (collectScores_cons v200211122 collectScores_nil))) rfl

theorem t200211212 : readBoardAux P2 4 (⟨N2, N0, N0, N2, N1, N1, N2, N1, N2⟩ : Grid) P1 = some (ZP, none) :=
  rfl

theorem v200211012 : readBoardAux P2 5 (⟨N2, N0, N0, N2, N1, N1, N0, N1, N2⟩ : Grid) P2 = some (ZP, some M01) :=
  readBoardAux_step P2 4 (⟨N2, N0, N0, N2, N1, N1, N0, N1, N2⟩ : Grid) P2 [M01, M02, M20] rfl rfl
    (collectScores_cons v220211012 (collectScores_cons v202211012 (collectScores_cons t200211212 collectScores_nil))) rfl

theorem v200211002 : readBoardAux P2 6 (⟨N2, N0, N0, N2, N1, N1, N0, N0, N2⟩ : Grid) P1 = some (Z0, some M20) :=
  readBoardAux_step P2 5 (⟨N2, N0, N0, N2, N1, N1, N0, N0, N2⟩ : Grid) P1 [M01, M02, M20, M21] rfl rfl
    (collectScores_cons v210211002 (collectScores_cons v201211002 (collectScores_cons v200211102 (collectScores_cons v200211012 collectScores_nil)))) rfl

theorem v200211000 : readBoardAux P2 7 (⟨N2, N0, N0, N2, N1, N1, N0, N0, N0⟩ : Grid) P2 = some (ZP, some M01) :=
  readBoardAux_step P2 6 (⟨N2, N0, N0, N2, N1, N1, N0, N0, N0⟩ : Grid) P2 [M01, M02, M20, M21, M22] rfl rfl
    (collectScores_cons v220211000 (collectScores_cons v202211000 (collectScores_cons t200211200 (collectScores_cons v200211020 (collectScores_cons v200211002 collectScores_nil))))) rfl

theorem v200212112 : readBoardAux P2 4 (⟨N2, N0, N0, N2, N1, N2, N1, N1, N2⟩ : Grid) P1 = some (ZM, some M01) :=
  readBoardAux_step P2 3 (⟨N2, N0, N0, N2, N1, N2, N1, N1, N2⟩ : Grid) P1 [M01, M02] rfl rfl
    (collectScores_cons t210212112 (collectScores_cons t201212112 collectScores_nil)) rfl

theorem v200212110 : readBoardAux P2 5 (⟨N2, N0, N0, N2, N1, N2, N1, N1, N0⟩ : Grid) P2 = some (ZM, some M01) :=
  readBoardAux_step P2 4 (⟨N2, N0, N0, N2, N1, N2, N1, N1, N0⟩ : Grid) P2 [M01, M02, M22] rfl rfl
    (collectScores_cons v220212110 (collectScores_cons v202212110 (collectScores_cons v200212112 collectScores_nil))) rfl

theorem v200212121 : readBoardAux P2 4 (⟨N2, N0, N0, N2, N1, N2, N1, N2, N1⟩ : Grid) P1 = some (ZM, some M02) :=
  readBoardAux_step P2 3 (⟨N2, N0, N0, N2, N1, N2, N1, N2, N1⟩ : Grid) P1 [M01, M02] rfl rfl
    (collectScores_cons v210212121 (collectScores_cons t201212121 collectScores_nil)) rfl

theorem v200212101 : readBoardAux P2 5 (⟨N2, N0, N0, N2, N1, N2, N1, N0, N1⟩ : Grid) P2 = some (ZM, some M01) :=
  readBoardAux_step P2 4 (⟨N2, N0, N0, N2, N1, N2, N1, N0, N1⟩ : Grid) P2 [M01, M02, M21] rfl rfl
    (collectScores_cons v220212101 (collectScores_cons v202212101 (collectScores_cons v200212121 collectScores_nil))) rfl

theorem v200212100 : readBoardAux P2 6 (⟨N2, N0, N0, N2, N1, N2, N1, N0, N0⟩ : Grid) P1 = some (ZM, some M01) :=
  readBoardAux_step P2 5 (⟨N2, N0, N0, N2, N1, N2, N1, N0, N0⟩ : Grid) P1 [M01, M02, M21, M22] rfl rfl
    (collectScores_cons v210212100 (collectScores_cons t201212100 (collectScores_cons v200212110 (collectScores_cons v200212101 collectScores_nil)))) rfl

theorem v200210121 : readBoardAux P2 5 (⟨N2, N0, N0, N2, N1, N0, N1, N2, N1⟩ : Grid) P2 = some (Z0, some M02) :=
  readBoardAux_step P2 4 (⟨N2, N0, N0, N2, N1, N0, N1, N2, N1⟩ : Grid) P2 [M01, M02, M12] rfl rfl
    (collectScores_cons v220210121 (collectScores_cons v202210121 (collectScores_cons v200212121 collectScores_nil))) rfl

theorem v200210120 : readBoardAux P2 6 (⟨N2, N0, N0, N2, N1, N0, N1, N2, N0⟩ : Grid) P1 = some (ZM, some M02) :=
  readBoardAux_step P2 5 (⟨N2, N0, N0, N2, N1, N0, N1, N2, N0⟩ : Grid) P1 [M01, M02, M12, M22] rfl rfl
    (collectScores_cons v210210120 (collectScores_cons t201210120 (collectScores_cons v200211120 (collectScores_cons v200210121 collectScores_nil)))) rfl

theorem v200210112 : readBoardAux P2 5 (⟨N2, N0, N0, N2, N1, N0, N1, N1, N2⟩ : Grid) P2 = some (ZM, some M01) :=
  readBoardAux_step P2 4 (⟨N2, N0, N0, N2, N1, N0, N1, N1, N2⟩ : Grid) P2 [M01, M02, M12] rfl rfl
    (collectScores_cons v220210112 (collectScores_cons v202210112 (collectScores_cons v200212112 collectScores_nil))) rfl

theorem v200210102 : readBoardAux P2 6 (⟨N2, N0, N0, N2, N1, N0, N1, N0, N2⟩ : Grid) P1 = some (ZM, some M01) :=
  readBoardAux_step P2 5 (⟨N2, N0, N0, N2, N1, N0, N1, N0, N2⟩ : Grid) P1 [M01, M02, M12, M21] rfl rfl
    (collectScores_cons v210210102 (collectScores_cons t201210102 (collectScores_cons v200211102 (collectScores_cons v200210112 collectScores_nil)))) rfl

theorem v200210100 : readBoardAux P2 7 (⟨N2, N0, N0, N2, N1, N0, N1, N0, N0⟩ : Grid) P2 = some (Z0, some M02) :=
  readBoardAux_step P2 6 (⟨N2, N0, N0, N2, N1, N0, N1, N0, N0⟩ : Grid) P2 [M01, M02, M12, M21, M22] rfl rfl
    (collectScores_cons v220210100 (collectScores_cons v202210100 (collectScores_cons v200212100 (collectScores_cons v200210120 (collectScores_cons v200210102 collectScores_nil))))) rfl

theorem t200212211 : readBoardAux P2 4 (⟨N2, N0, N0, N2, N1, N2, N2, N1, N1⟩ : Grid) P1 = some (ZP, none) :=
  rfl

theorem v200212011 : readBoardAux P2 5 (⟨N2, N0, N0, N2, N1, N2, N0, N1, N1⟩ : Grid) P2 = some (ZP, some M20) :=
  readBoardAux_step P2 4 (⟨N2, N0, N0, N2, N1, N2, N0, N1, N1⟩ : Grid) P2 [M01, M02, M20] rfl rfl
    (collectScores_cons v220212011 (collectScores_cons v202212011 (collectScores_cons t200212211 collectScores_nil))) rfl

theorem v200212010 : readBoardAux P2 6 (⟨N2, N0, N0, N2, N1, N2, N0, N1, N0⟩ : Grid) P1 = some (ZM, some M01) :=
  readBoardAux_step P2 5 (⟨N2, N0, N0, N2, N1, N2, N0, N1, N0⟩ : Grid) P1 [M01, M02, M20, M22] rfl rfl
    (collectScores_cons t210212010 (collectScores_cons v201212010 (collectScores_cons v200212110 (collectScores_cons v200212011 collectScores_nil)))) rfl

theorem t200210210 : readBoardAux P2 6 (⟨N2, N0, N0, N2, N1, N0, N2, N1, N0⟩ : Grid) P1 = some (ZP, none) :=
  rfl

theorem v200210012 : readBoardAux P2 6 (⟨N2, N0, N0, N2, N1, N0, N0, N1, N2⟩ : Grid) P1 = some (ZM, some M01) :=
  readBoardAux_step P2 5 (⟨N2, N0, N0, N2, N1, N0, N0, N1, N2⟩ : Grid) P1 [M01, M02, M12, M20] rfl rfl
    (collectScores_cons t210210012 (collectScores_cons v201210012 (collectScores_cons v200211012 (collectScores_cons v200210112 collectScores_nil)))) rfl

theorem v200210010 : readBoardAux P2 7 (⟨N2, N0, N0, N2, N1, N0, N0, N1, N0⟩ : Grid) P2 = some (ZP, some M01) :=
  readBoardAux_step P2 6 (⟨N2, N0, N0, N2, N1, N0, N0, N1, N0⟩ : Grid) P2 [M01, M02, M12, M20, M22] rfl rfl
    (collectScores_cons v220210010 (collectScores_cons v202210010 (collectScores_cons v200212010 (collectScores_cons t200210210 (collectScores_cons v200210012 collectScores_nil))))) rfl

theorem v200212001 : readBoardAux P2 6 (⟨N2, N0, N0, N2, N1, N2, N0, N0, N1⟩ : Grid) P1 = some (ZM, some M20) :=
  readBoardAux_step P2 5 (⟨N2, N0, N0, N2, N1, N2, N0, N0, N1⟩ : Grid) P1 [M01, M02, M20, M21] rfl rfl
    (collectScores_cons v210212001 (collectScores_cons v201212001 (collectScores_cons v200212101 (collectScores_cons v200212011 collectScores_nil)))) rfl

theorem t200210201 : readBoardAux P2 6 (⟨N2, N0, N0, N2, N1, N0, N2, N0, N1⟩ : Grid) P1 = some (ZP, none) :=
  rfl

theorem v200210021 : readBoardAux P2 6 (⟨N2, N0, N0, N2, N1, N0, N0, N2, N1⟩ : Grid) P1 = some (Z0, some M20) :=
  readBoardAux_step P2 5 (⟨N2, N0, N0, N2, N1, N0, N0, N2, N1⟩ : Grid) P1 [M01, M02, M12, M20] rfl rfl
    (collectScores_cons v210210021 (collectScores_cons v201210021 (collectScores_cons v200211021 (collectScores_cons v200210121 collectScores_nil)))) rfl

theorem v200210001 : readBoardAux P2 7 (⟨N2, N0, N0, N2, N1, N0, N0, N0, N1⟩ : Grid) P2 = some (ZP, some M01) :=
  readBoardAux_step P2 6 (⟨N2, N0, N0, N2, N1, N0, N0, N0, N1⟩ : Grid) P2 [M01, M02, M12, M20, M21] rfl rfl
    (collectScores_cons v220210001 (collectScores_cons v202210001 (collectScores_cons v200212001 (collectScores_cons t200210201 (collectScores_cons v200210021 collectScores_nil))))) rfl

theorem v200210000 : readBoardAux P2 8 (⟨N2, N0, N0, N2, N1, N0, N0, N0, N0⟩ : Grid) P1 = some (Z0, some M20) :=
  readBoardAux_step P2 7 (⟨N2, N0, N0, N2, N1, N0, N0, N0, N0⟩ : Grid) P1 [M01, M02, M12, M20, M21, M22] rfl rfl
    (collectScores_cons v210210000 (collectScores_cons v201210000 (collectScores_cons v200211000 (collectScores_cons v200210100 (collectScores_cons v200210010 (collectScores_cons v200210001 collectScores_nil)))))) rfl

theorem v200012121 : readBoardAux P2 5 (⟨N2, N0, N0, N0, N1, N2, N1, N2, N1⟩ : Grid) P2 = some (Z0, some M02) :=
  readBoardAux_step P2 4 (⟨N2, N0, N0, N0, N1, N2, N1, N2, N1⟩ : Grid) P2 [M01, M02, M10] rfl rfl
    (collectScores_cons v220012121 (collectScores_cons v202012121 (collectScores_cons v200212121 collectScores_nil))) rfl

theorem v200012120 : readBoardAux P2 6 (⟨N2, N0, N0, N0, N1, N2, N1, N2, N0⟩ : Grid) P1 = some (ZM, some M02) :=
  readBoardAux_step P2 5 (⟨N2, N0, N0, N0, N1, N2, N1, N2, N0⟩ : Grid) P1 [M01, M02, M10, M22] rfl rfl
    (collectScores_cons v210012120 (collectScores_cons t201012120 (collectScores_cons v200112120 (collectScores_cons v200012121 collectScores_nil)))) rfl

theorem v200012112 : readBoardAux P2 5 (⟨N2, N0, N0, N0, N1, N2, N1, N1, N2⟩ : Grid) P2 = some (ZP, some M02) :=
  readBoardAux_step P2 4 (⟨N2, N0, N0, N0, N1, N2, N1, N1, N2⟩ : Grid) P2 [M01, M02, M10] rfl rfl
    (collectScores_cons v220012112 (collectScores_cons t202012112 (collectScores_cons v200212112 collectScores_nil))) rfl

theorem v200012102 : readBoardAux P2 6 (⟨N2, N0, N0, N0, N1, N2, N1, N0, N2⟩ : Grid) P1 = some (ZM, some M02) :=
  readBoardAux_step P2 5 (⟨N2, N0, N0, N0, N1, N2, N1, N0, N2⟩ : Grid) P1 [M01, M02, M10, M21] rfl rfl
    (collectScores_cons v210012102 (collectScores_cons t201012102 (collectScores_cons v200112102 (collectScores_cons v200012112 collectScores_nil)))) rfl

theorem v200012100 : readBoardAux P2 7 (⟨N2, N0, N0, N0, N1, N2, N1, N0, N0⟩ : Grid) P2 = some (ZP, some M02) :=
  readBoardAux_step P2 6 (⟨N2, N0, N0, N0, N1, N2, N1, N0, N0⟩ : Grid) P2 [M01, M02, M10, M21, M22] rfl rfl
    (collectScores_cons v220012100 (collectScores_cons v202012100 (collectScores_cons v200212100 (collectScores_cons v200012120 (collectScores_cons v200012102 collectScores_nil))))) rfl

theorem v200012211 : readBoardAux P2 5 (⟨N2, N0, N0, N0, N1, N2, N2, N1, N1⟩ : Grid) P2 = some (ZP, some M01) :=
  readBoardAux_step P2 4 (⟨N2, N0, N0, N0, N1, N2, N2, N1, N1⟩ : Grid) P2 [M01, M02, M10] rfl rfl
    (collectScores_cons v220012211 (collectScores_cons v202012211 (collectScores_cons t200212211 collectScores_nil))) rfl

theorem v200012210 : readBoardAux P2 6 (⟨N2, N0, N0, N0, N1, N2, N2, N1, N0⟩ : Grid) P1 = some (ZM, some M01) :=
  readBoardAux_step P2 5 (⟨N2, N0, N0, N0, N1, N2, N2, N1, N0⟩ : Grid) P1 [M01, M02, M10, M22] rfl rfl
    (collectScores_cons t210012210 (collectScores_cons v201012210 (collectScores_cons v200112210 (collectScores_cons v200012211 collectScores_nil)))) rfl

theorem v200012012 : readBoardAux P2 6 (⟨N2, N0, N0, N0, N1, N2, N0, N1, N2⟩ : Grid) P1 = some (ZM, some M01) :=
  readBoardAux_step P2 5 (⟨N2, N0, N0, N0, N1, N2, N0, N1, N2⟩ : Grid) P1 [M01, M02, M10, M20] rfl rfl
    (collectScores_cons t210012012 (collectScores_cons v201012012 (collectScores_cons v200112012 (collectScores_cons v200012112 collectScores_nil)))) rfl

theorem v200012010 : readBoardAux P2 7 (⟨N2, N0, N0, N0, N1, N2, N0, N1, N0⟩ : Grid) P2 = some (Z0, some M01) :=
  readBoardAux_step P2 6 (⟨N2, N0, N0, N0, N1, N2, N0, N1, N0⟩ : Grid) P2 [M01, M02, M10, M20, M22] rfl rfl
    (collectScores_cons v220012010 (collectScores_cons v202012010 (collectScores_cons v200212010 (collectScores_cons v200012210 (collectScores_cons v200012012 collectScores_nil))))) rfl

theorem v200012201 : readBoardAux P2 6 (⟨N2, N0, N0, N0, N1, N2, N2, N0, N1⟩ : Grid) P1 = some (Z0, some M10) :=
  readBoardAux_step P2 5 (⟨N2, N0, N0, N0, N1, N2, N2, N0, N1⟩ : Grid) P1 [M01, M02, M10, M21] rfl rfl
    (collectScores_cons v210012201 (collectScores_cons v201012201 (collectScores_cons v200112201 (collectScores_cons v200012211 collectScores_nil)))) rfl

theorem v200012021 : readBoardAux P2 6 (⟨N2, N0, N0, N0, N1, N2, N0, N2, N1⟩ : Grid) P1 = some (Z0, some M01) :=
  readBoardAux_step P2 5 (⟨N2, N0, N0, N0, N1, N2, N0, N2, N1⟩ : Grid) P1 [M01, M02, M10, M20] rfl rfl
    (collectScores_cons v210012021 (collectScores_cons v201012021 (collectScores_cons v200112021 (collectScores_cons v200012121 collectScores_nil)))) rfl

theorem v200012001 : readBoardAux P2 7 (⟨N2, N0, N0, N0, N1, N2, N0, N0, N1⟩ : Grid) P2 = some (Z0, some M01) :=
  readBoardAux_step P2 6 (⟨N2, N0, N0, N0, N1, N2, N0, N0, N1⟩ : Grid) P2 [M01, M02, M10, M20, M21] rfl rfl
    (collectScores_cons v220012001 (collectScores_cons v202012001 (collectScores_cons v200212001 (collectScores_cons v200012201 (collectScores_cons v200012021 collectScores_nil))))) rfl

theorem v200012000 : readBoardAux P2 8 (⟨N2, N0, N0, N0, N1, N2, N0, N0, N0⟩ : Grid) P1 = some (Z0, some M01) :=
  readBoardAux_step P2 7 (⟨N2, N0, N0, N0, N1, N2, N0, N0, N0⟩ : Grid) P1 [M01, M02, M10, M20, M21, M22] rfl rfl
    (collectScores_cons v210012000 (collectScores_cons v201012000 (collectScores_cons v200112000 (collectScores_cons v200012100 (collectScores_cons v200012010 (collectScores_cons v200012001 collectScores_nil)))))) rfl

theorem v200011221 : readBoardAux P2 5 (⟨N2, N0, N0, N0, N1, N1, N2, N2, N1⟩ : Grid) P2 = some (ZP, some M10) :=
  readBoardAux_step P2 4 (⟨N2, N0, N0, N0, N1, N1, N2, N2, N1⟩ : Grid) P2 [M01, M02, M10] rfl rfl
    (collectScores_cons v220011221 (collectScores_cons v202011221 (collectScores_cons t200211221 collectScores_nil))) rfl

theorem v200011220 : readBoardAux P2 6 (⟨N2, N0, N0, N0, N1, N1, N2, N2, N0⟩ : Grid) P1 = some (ZM, some M10) :=
  readBoardAux_step P2 5 (⟨N2, N0, N0, N0, N1, N1, N2, N2, N0⟩ : Grid) P1 [M01, M02, M10, M22] rfl rfl
    (collectScores_cons v210011220 (collectScores_cons v201011220 (collectScores_cons t200111220 (collectScores_cons v200011221 collectScores_nil)))) rfl

theorem v200011212 : readBoardAux P2 5 (⟨N2, N0, N0, N0, N1, N1, N2, N1, N2⟩ : Grid) P2 = some (ZP, some M10) :=
  readBoardAux_step P2 4 (⟨N2, N0, N0, N0, N1, N1, N2, N1, N2⟩ : Grid) P2 [M01, M02, M10] rfl rfl
    (collectScores_cons v220011212 (collectScores_cons v202011212 (collectScores_cons t200211212 collectScores_nil))) rfl

theorem v200011202 : readBoardAux P2 6 (⟨N2, N0, N0, N0, N1, N1, N2, N0, N2⟩ : Grid) P1 = some (ZM, some M10) :=
  readBoardAux_step P2 5 (⟨N2, N0, N0, N0, N1, N1, N2, N0, N2⟩ : Grid) P1 [M01, M02, M10, M21] rfl rfl
    (collectScores_cons v210011202 (collectScores_cons v201011202 (collectScores_cons t200111202 (collectScores_cons v200011212 collectScores_nil)))) rfl

theorem v200011200 : readBoardAux P2 7 (⟨N2, N0, N0, N0, N1, N1, N2, N0, N0⟩ : Grid) P2 = some (ZP, some M10) :=
  readBoardAux_step P2 6 (⟨N2, N0, N0, N0, N1, N1, N2, N0, N0⟩ : Grid) P2 [M01, M02, M10, M21, M22] rfl rfl
    (collectScores_cons v220011200 (collectScores_cons v202011200 (collectScores_cons t200211200 (collectScores_cons v200011220 (collectScores_cons v200011202 collectScores_nil))))) rfl

theorem v200010212 : readBoardAux P2 6 (⟨N2, N0, N0, N0, N1, N0, N2, N1, N2⟩ : Grid) P1 = some (ZM, some M01) :=
  readBoardAux_step P2 5 (⟨N2, N0, N0, N0, N1, N0, N2, N1, N2⟩ : Grid) P1 [M01, M02, M10, M12] rfl rfl
    (collectScores_cons t210010212 (collectScores_cons v201010212 (collectScores_cons v200110212 (collectScores_cons v200011212 collectScores_nil)))) rfl

theorem v200010210 : readBoardAux P2 7 (⟨N2, N0, N0, N0, N1, N0, N2, N1, N0⟩ : Grid) P2 = some (ZP, some M01) :=
  readBoardAux_step P2 6 (⟨N2, N0, N0, N0, N1, N0, N2, N1, N0⟩ : Grid) P2 [M01, M02, M10, M12, M22] rfl rfl
    (collectScores_cons v220010210 (collectScores_cons v202010210 (collectScores_cons t200210210 (collectScores_cons v200012210 (collectScores_cons v200010212 collectScores_nil))))) rfl

theorem v200010221 : readBoardAux P2 6 (⟨N2, N0, N0, N0, N1, N0, N2, N2, N1⟩ : Grid) P1 = some (Z0, some M10) :=
  readBoardAux_step P2 5 (⟨N2, N0, N0, N0, N1, N0, N2, N2, N1⟩ : Grid) P1 [M01, M02, M10, M12] rfl rfl
    (collectScores_cons v210010221 (collectScores_cons v201010221 (collectScores_cons v200110221 (collectScores_cons v200011221 collectScores_nil)))) rfl

theorem v200010201 : readBoardAux P2 7 (⟨N2, N0, N0, N0, N1, N0, N2, N0, N1⟩ : Grid) P2 = some (ZP, some M01) :=
  readBoardAux_step P2 6 (⟨N2, N0, N0, N0, N1, N0, N2, N0, N1⟩ : Grid) P2 [M01, M02, M10, M12, M21] rfl rfl
    (collectScores_cons v220010201 (collectScores_cons v202010201 (collectScores_cons t200210201 (collectScores_cons v200012201 (collectScores_cons v200010221 collectScores_nil))))) rfl

theorem v200010200 : readBoardAux P2 8 (⟨N2, N0, N0, N0, N1, N0, N2, N0, N0⟩ : Grid) P1 = some (Z0, some M10) :=
  readBoardAux_step P2 7 (⟨N2, N0, N0, N0, N1, N0, N2, N0, N0⟩ : Grid) P1 [M01, M02, M10, M12, M21, M22] rfl rfl
    (collectScores_cons v210010200 (collectScores_cons v201010200 (collectScores_cons v200110200 (collectScores_cons v200011200 (collectScores_cons v200010210 (collectScores_cons v200010201 collectScores_nil)))))) rfl

theorem v200011122 : readBoardAux P2 5 (⟨N2, N0, N0, N0, N1, N1, N1, N2, N2⟩ : Grid) P2 = some (ZM, some M01) :=
  readBoardAux_step P2 4 (⟨N2, N0, N0, N0, N1, N1, N1, N2, N2⟩ : Grid) P2 [M01, M02, M10] rfl rfl
    (collectScores_cons v220011122 (collectScores_cons v202011122 (collectScores_cons v200211122 collectScores_nil))) rfl

theorem v200011022 : readBoardAux P2 6 (⟨N2, N0, N0, N0, N1, N1, N0, N2, N2⟩ : Grid) P1 = some (ZM, some M10) :=
  readBoardAux_step P2 5 (⟨N2, N0, N0, N0, N1, N1, N0, N2, N2⟩ : Grid) P1 [M01, M02, M10, M20] rfl rfl
    (collectScores_cons v210011022 (collectScores_cons v201011022 (collectScores_cons t200111022 (collectScores_cons v200011122 collectScores_nil)))) rfl

theorem v200011020 : readBoardAux P2 7 (⟨N2, N0, N0, N0, N1, N1, N0, N2, N0⟩ : Grid) P2 = some (Z0, some M10) :=
  readBoardAux_step P2 6 (⟨N2, N0, N0, N0, N1, N1, N0, N2, N0⟩ : Grid) P2 [M01, M02, M10, M20, M22] rfl rfl
    (collectScores_cons v220011020 (collectScores_cons v202011020 (collectScores_cons v200211020 (collectScores_cons v200011220 (collectScores_cons v200011022 collectScores_nil))))) rfl

theorem v200010122 : readBoardAux P2 6 (⟨N2, N0, N0, N0, N1, N0, N1, N2, N2⟩ : Grid) P1 = some (ZM, some M02) :=
  readBoardAux_step P2 5 (⟨N2, N0, N0, N0, N1, N0, N1, N2, N2⟩ : Grid) P1 [M01, M02, M10, M12] rfl rfl
    (collectScores_cons v210010122 (collectScores_cons t201010122 (collectScores_cons v200110122 (collectScores_cons v200011122 collectScores_nil)))) rfl

theorem v200010120 : readBoardAux P2 7 (⟨N2, N0, N0, N0, N1, N0, N1, N2, N0⟩ : Grid) P2 = some (Z0, some M02) :=
  readBoardAux_step P2 6 (⟨N2, N0, N0, N0, N1, N0, N1, N2, N0⟩ : Grid) P2 [M01, M02, M10, M12, M22] rfl rfl
    (collectScores_cons v220010120 (collectScores_cons v202010120 (collectScores_cons v200210120 (collectScores_cons v200012120 (collectScores_cons v200010122 collectScores_nil))))) rfl

theorem v200010021 : readBoardAux P2 7 (⟨N2, N0, N0, N0, N1, N0, N0, N2, N1⟩ : Grid) P2 = some (Z0, some M02) :=
  readBoardAux_step P2 6 (⟨N2, N0, N0, N0, N1, N0, N0, N2, N1⟩ : Grid) P2 [M01, M02, M10, M12, M20] rfl rfl
    (collectScores_cons v220010021 (collectScores_cons v202010021 (collectScores_cons v200210021 (collectScores_cons v200012021 (collectScores_cons v200010221 collectScores_nil))))) rfl

theorem v200010020 : readBoardAux P2 8 (⟨N2, N0, N0, N0, N1, N0, N0, N2, N0⟩ : Grid) P1 = some (Z0, some M10) :=
  readBoardAux_step P2 7 (⟨N2, N0, N0, N0, N1, N0, N0, N2, N0⟩ : Grid) P1 [M01, M02, M10, M12, M20, M22] rfl rfl
    (collectScores_cons v210010020 (collectScores_cons v201010020 (collectScores_cons v200110020 (collectScores_cons v200011020 (collectScores_cons v200010120 (collectScores_cons v200010021 collectScores_nil)))))) rfl

theorem v200011002 : readBoardAux P2 7 (⟨N2, N0, N0, N0, N1, N1, N0, N0, N2⟩ : Grid) P2 = some (Z0, some M10) :=
  readBoardAux_step P2 6 (⟨N2, N0, N0, N0, N1, N1, N0, N0, N2⟩ : Grid) P2 [M01, M02, M10, M20, M21] rfl rfl
    (collectScores_cons v220011002 (collectScores_cons v202011002 (collectScores_cons v200211002 (collectScores_cons v200011202 (collectScores_cons v200011022 collectScores_nil))))) rfl

theorem v200010102 : readBoardAux P2 7 (⟨N2, N0, N0, N0, N1, N0, N1, N0, N2⟩ : Grid) P2 = some (ZP, some M02) :=
  readBoardAux_step P2 6 (⟨N2, N0, N0, N0, N1, N0, N1, N0, N2⟩ : Grid) P2 [M01, M02, M10, M12, M21] rfl rfl
    (collectScores_cons v220010102 (collectScores_cons v202010102 (collectScores_cons v200210102 (collectScores_cons v200012102 (collectScores_cons v200010122 collectScores_nil))))) rfl

theorem v200010012 : readBoardAux P2 7 (⟨N2, N0, N0, N0, N1, N0, N0, N1, N2⟩ : Grid) P2 = some (Z0, some M01) :=
  readBoardAux_step P2 6 (⟨N2, N0, N0, N0, N1, N0, N0, N1, N2⟩ : Grid) P2 [M01, M02, M10, M12, M20] rfl rfl
    (collectScores_cons v220010012 (collectScores_cons v202010012 (collectScores_cons v200210012 (collectScores_cons v200012012 (collectScores_cons v200010212 collectScores_nil))))) rfl

theorem v200010002 : readBoardAux P2 8 (⟨N2, N0, N0, N0, N1, N0, N0, N0, N2⟩ : Grid) P1 = some (Z0, some M01) :=
  readBoardAux_step P2 7 (⟨N2, N0, N0, N0, N1, N0, N0, N0, N2⟩ : Grid) P1 [M01, M02, M10, M12, M20, M21] rfl rfl
    (collectScores_cons v210010002 (collectScores_cons v201010002 (collectScores_cons v200110002 (collectScores_cons v200011002 (collectScores_cons v200010102 (collectScores_cons v200010012 collectScores_nil)))))) rfl

theorem v200010000 : readBoardAux P2 9 (⟨N2, N0, N0, N0, N1, N0, N0, N0, N0⟩ : Grid) P2 = some (Z0, some M01) :=
  readBoardAux_step P2 8 (⟨N2, N0, N0, N0, N1, N0, N0, N0, N0⟩ : Grid) P2 [M01, M02, M10, M12, M20, M21, M22] rfl rfl
    (collectScores_cons v220010000 (collectScores_cons v202010000 (collectScores_cons v200210000 (collectScores_cons v200012000 (collectScores_cons v200010200 (collectScores_cons v200010020 (collectScores_cons v200010002 collectScores_nil))))))) rfl

theorem t222001100 : readBoardAux P2 6 (⟨N2, N2, N2, N0, N0, N1, N1, N0, N0⟩ : Grid) P1 = some (ZP, none) :=
  rfl

theorem t222201110 : readBoardAux P2 4 (⟨N2, N2, N2, N2, N0, N1, N1, N1, N0⟩ : Grid) P1 = some (ZP, none) :=
  rfl

theorem t220221111 : readBoardAux P2 3 (⟨N2, N2, N0, N2, N2, N1, N1, N1, N1⟩ : Grid) P2 = some (ZM, none) :=
  rfl

theorem v220221110 : readBoardAux P2 4 (⟨N2, N2, N0, N2, N2, N1, N1, N1, N0⟩ : Grid) P1 = some (ZM, some M22) :=
  readBoardAux_step P2 3 (⟨N2, N2, N0, N2, N2, N1, N1, N1, N0⟩ : Grid) P1 [M02, M22] rfl rfl
    (collectScores_cons v221221110 (collectScores_cons t220221111 collectScores_nil)) rfl

theorem v220201112 : readBoardAux P2 4 (⟨N2, N2, N0, N2, N0, N1, N1, N1, N2⟩ : Grid) P1 = some (ZP, some M02) :=
  readBoardAux_step P2 3 (⟨N2, N2, N0, N2, N0, N1, N1, N1, N2⟩ : Grid) P1 [M02, M11] rfl rfl
    (collectScores_cons v221201112 (collectScores_cons v220211112 collectScores_nil)) rfl

theorem v220201110 : readBoardAux P2 5 (⟨N2, N2, N0, N2, N0, N1, N1, N1, N0⟩ : Grid) P2 = some (ZP, some M02) :=
  readBoardAux_step P2 4 (⟨N2, N2, N0, N2, N0, N1, N1, N1, N0⟩ : Grid) P2 [M02, M11, M22] rfl rfl
    (collectScores_cons t222201110 (collectScores_cons v220221110 (collectScores_cons v220201112 collectScores_nil))) rfl

theorem t222201101 : readBoardAux P2 4 (⟨N2, N2, N2, N2, N0, N1, N1, N0, N1⟩ : Grid) P1 = some (ZP, none) :=
  rfl

theorem v220221101 : readBoardAux P2 4 (⟨N2, N2, N0, N2, N2, N1, N1, N0, N1⟩ : Grid) P1 = some (ZM, some M02) :=
  readBoardAux_step P2 3 (⟨N2, N2, N0, N2, N2, N1, N1, N0, N1⟩ : Grid) P1 [M02, M21] rfl rfl
    (collectScores_cons t221221101 (collectScores_cons t220221111 collectScores_nil)) rfl

theorem v220201121 : readBoardAux P2 4 (⟨N2, N2, N0, N2, N0, N1, N1, N2, N1⟩ : Grid) P1 = some (ZM, some M02) :=
  readBoardAux_step P2 3 (⟨N2, N2, N0, N2, N0, N1, N1, N2, N1⟩ : Grid) P1 [M02, M11] rfl rfl
    (collectScores_cons t221201121 (collectScores_cons v220211121 collectScores_nil)) rfl

theorem v220201101 : readBoardAux P2 5 (⟨N2, N2, N0, N2, N0, N1, N1, N0, N1⟩ : Grid) P2 = some (ZP, some M02) :=
  readBoardAux_step P2 4 (⟨N2, N2, N0, N2, N0, N1, N1, N0, N1⟩ : Grid) P2 [M02, M11, M21] rfl rfl
    (collectScores_cons t222201101 (collectScores_cons v220221101 (collectScores_cons v220201121 collectScores_nil))) rfl

theorem v220201100 : readBoardAux P2 6 (⟨N2, N2, N0, N2, N0, N1, N1, N0, N0⟩ : Grid) P1 = some (ZM, some M02) :=
  readBoardAux_step P2 5 (⟨N2, N2, N0, N2, N0, N1, N1, N0, N0⟩ : Grid) P1 [M02, M11, M21, M22] rfl rfl
    (collectScores_cons v221201100 (collectScores_cons v220211100 (collectScores_cons v220201110 (collectScores_cons v220201101 collectScores_nil)))) rfl

theorem t222021110 : readBoardAux P2 4 (⟨N2, N2, N2, N0, N2, N1, N1, N1, N0⟩ : Grid) P1 = some (ZP, none) :=
  rfl

theorem t220021112 : readBoardAux P2 4 (⟨N2, N2, N0, N0, N2, N1, N1, N1, N2⟩ : Grid) P1 = some (ZP, none) :=
  rfl

theorem v220021110 : readBoardAux P2 5 (⟨N2, N2, N0, N0, N2, N1, N1, N1, N0⟩ : Grid) P2 = some (ZP, some M02) :=
  readBoardAux_step P2 4 (⟨N2, N2, N0, N0, N2, N1, N1, N1, N0⟩ : Grid) P2 [M02, M10, M22] rfl rfl
    (collectScores_cons t222021110 (collectScores_cons v220221110 (collectScores_cons t220021112 collectScores_nil))) rfl

theorem t222021101 : readBoardAux P2 4 (⟨N2, N2, N2, N0, N2, N1, N1, N0, N1⟩ : Grid) P1 = some (ZP, none) :=
  rfl

theorem t220021121 : readBoardAux P2 4 (⟨N2, N2, N0, N0, N2, N1, N1, N2, N1⟩ : Grid) P1 = some (ZP, none) :=
  rfl

theorem v220021101 : readBoardAux P2 5 (⟨N2, N2, N0, N0, N2, N1, N1, N0, N1⟩ : Grid) P2 = some (ZP, some M02) :=
  readBoardAux_step P2 4 (⟨N2, N2, N0, N0, N2, N1, N1, N0, N1⟩ : Grid) P2 [M02, M10, M21] rfl rfl
    (collectScores_cons t222021101 (collectScores_cons v220221101 (collectScores_cons t220021121 collectScores_nil))) rfl

theorem v220021100 : readBoardAux P2 6 (⟨N2, N2, N0, N0, N2, N1, N1, N0, N0⟩ : Grid) P1 = some (ZP, some M02) :=
  readBoardAux_step P2 5 (⟨N2, N2, N0, N0, N2, N1, N1, N0, N0⟩ : Grid) P1 [M02, M10, M21, M22] rfl rfl
    (collectScores_cons v221021100 (collectScores_cons v220121100 (collectScores_cons v220021110 (collectScores_cons v220021101 collectScores_nil)))) rfl

theorem t222001121 : readBoardAux P2 4 (⟨N2, N2, N2, N0, N0, N1, N1, N2, N1⟩ : Grid) P1 = some (ZP, none) :=
  rfl

theorem v220001121 : readBoardAux P2 5 (⟨N2, N2, N0, N0, N0, N1, N1, N2, N1⟩ : Grid) P2 = some (ZP, some M02) :=
  readBoardAux_step P2 4 (⟨N2, N2, N0, N0, N0, N1, N1, N2, N1⟩ : Grid) P2 [M02, M10, M11] rfl rfl
    (collectScores_cons t222001121 (collectScores_cons v220201121 (collectScores_cons t220021121 collectScores_nil))) rfl

theorem v220001120 : readBoardAux P2 6 (⟨N2, N2, N0, N0, N0, N1, N1, N2, N0⟩ : Grid) P1 = some (ZP, some M02) :=
  readBoardAux_step P2 5 (⟨N2, N2, N0, N0, N0, N1, N1, N2, N0⟩ : Grid) P1 [M02, M10, M11, M22] rfl rfl
    (collectScores_cons v221001120 (collectScores_cons v220101120 (collectScores_cons v220011120 (collectScores_cons v220001121 collectScores_nil)))) rfl

theorem t222001112 : readBoardAux P2 4 (⟨N2, N2, N2, N0, N0, N1, N1, N1, N2⟩ : Grid) P1 = some (ZP, none) :=
  rfl

theorem v220001112 : readBoardAux P2 5 (⟨N2, N2, N0, N0, N0, N1, N1, N1, N2⟩ : Grid) P2 = some (ZP, some M02) :=
  readBoardAux_step P2 4 (⟨N2, N2, N0, N0, N0, N1, N1, N1, N2⟩ : Grid) P2 [M02, M10, M11] rfl rfl
    (collectScores_cons t222001112 (collectScores_cons v220201112 (collectScores_cons t220021112 collectScores_nil))) rfl

theorem v220001102 : readBoardAux P2 6 (⟨N2, N2, N0, N0, N0, N1, N1, N0, N2⟩ : Grid) P1 = some (ZP, some M02) :=
  readBoardAux_step P2 5 (⟨N2, N2, N0, N0, N0, N1, N1, N0, N2⟩ : Grid) P1 [M02, M10, M11, M21] rfl rfl
    (collectScores_cons v221001102 (collectScores_cons v220101102 (collectScores_cons v220011102 (collectScores_cons v220001112 collectScores_nil)))) rfl

theorem v220001100 : readBoardAux P2 7 (⟨N2, N2, N0, N0, N0, N1, N1, N0, N0⟩ : Grid) P2 = some (ZP, some M02) :=
  readBoardAux_step P2 6 (⟨N2, N2, N0, N0, N0, N1, N1, N0, N0⟩ : Grid) P2 [M02, M10, M11, M21, M22] rfl rfl
    (collectScores_cons t222001100 (collectScores_cons v220201100 (collectScores_cons v220021100 (collectScores_cons v220001120 (collectScores_cons v220001102 collectScores_nil))))) rfl

theorem t222001010 : readBoardAux P2 6 (⟨N2, N2, N2, N0, N0, N1, N0, N1, N0⟩ : Grid) P1 = some (ZP, none) :=
  rfl

theorem t222201011 : readBoardAux P2 4 (⟨N2, N2, N2, N2, N0, N1, N0, N1, N1⟩ : Grid) P1 = some (ZP, none) :=
  rfl

theorem v220221011 : readBoardAux P2 4 (⟨N2, N2, N0, N2, N2, N1, N0, N1, N1⟩ : Grid) P1 = some (ZM, some M02) :=
  readBoardAux_step P2 3 (⟨N2, N2, N0, N2, N2, N1, N0, N1, N1⟩ : Grid) P1 [M02, M20] rfl rfl
    (collectScores_cons t221221011 (collectScores_cons t220221111 collectScores_nil)) rfl

theorem t220201211 : readBoardAux P2 4 (⟨N2, N2, N0, N2, N0, N1, N2, N1, N1⟩ : Grid) P1 = some (ZP, none) :=
  rfl

theorem v220201011 : readBoardAux P2 5 (⟨N2, N2, N0, N2, N0, N1, N0, N1, N1⟩ : Grid) P2 = some (ZP, some M02) :=
  readBoardAux_step P2 4 (⟨N2, N2, N0, N2, N0, N1, N0, N1, N1⟩ : Grid) P2 [M02, M11, M20] rfl rfl
    (collectScores_cons t222201011 (collectScores_cons v220221011 (collectScores_cons t220201211 collectScores_nil))) rfl

theorem v220201010 : readBoardAux P2 6 (⟨N2, N2, N0, N2, N0, N1, N0, N1, N0⟩ : Grid) P1 = some (ZP, some M02) :=
  readBoardAux_step P2 5 (⟨N2, N2, N0, N2, N0, N1, N0, N1, N0⟩ : Grid) P1 [M02, M11, M20, M22] rfl rfl
    (collectScores_cons v221201010 (collectScores_cons v220211010 (collectScores_cons v220201110 (collectScores_cons v220201011 collectScores_nil)))) rfl

theorem t222021011 : readBoardAux P2 4 (⟨N2, N2, N2, N0, N2, N1, N0, N1, N1⟩ : Grid) P1 = some (ZP, none) :=
  rfl

theorem v220021211 : readBoardAux P2 4 (⟨N2, N2, N0, N0, N2, N1, N2, N1, N1⟩ : Grid) P1 = some (ZM, some M02) :=
  readBoardAux_step P2 3 (⟨N2, N2, N0, N0, N2, N1, N2, N1, N1⟩ : Grid) P1 [M02, M10] rfl rfl
    (collectScores_cons t221021211 (collectScores_cons v220121211 collectScores_nil)) rfl

theorem v220021011 : readBoardAux P2 5 (⟨N2, N2, N0, N0, N2, N1, N0, N1, N1⟩ : Grid) P2 = some (ZP, some M02) :=
  readBoardAux_step P2 4 (⟨N2, N2, N0, N0, N2, N1, N0, N1, N1⟩ : Grid) P2 [M02, M10, M20] rfl rfl
    (collectScores_cons t222021011 (collectScores_cons v220221011 (collectScores_cons v220021211 collectScores_nil))) rfl

theorem v220021010 : readBoardAux P2 6 (⟨N2, N2, N0, N0, N2, N1, N0, N1, N0⟩ : Grid) P1 = some (ZP, some M02) :=
  readBoardAux_step P2 5 (⟨N2, N2, N0, N0, N2, N1, N0, N1, N0⟩ : Grid) P1 [M02, M10, M20, M22] rfl rfl
    (collectScores_cons v221021010 (collectScores_cons v220121010 (collectScores_cons v220021110 (collectScores_cons v220021011 collectScores_nil)))) rfl

theorem t222001211 : readBoardAux P2 4 (⟨N2, N2, N2, N0, N0, N1, N2, N1, N1⟩ : Grid) P1 = some (ZP, none) :=
  rfl

theorem v220001211 : readBoardAux P2 5 (⟨N2, N2, N0, N0, N0, N1, N2, N1, N1⟩ : Grid) P2 = some (ZP, some M02) :=
  readBoardAux_step P2 4 (⟨N2, N2, N0, N0, N0, N1, N2, N1, N1⟩ : Grid) P2 [M02, M10, M11] rfl rfl
    (collectScores_cons t222001211 (collectScores_cons t220201211 (collectScores_cons v220021211 collectScores_nil))) rfl

theorem v220001210 : readBoardAux P2 6 (⟨N2, N2, N0, N0, N0, N1, N2, N1, N0⟩ : Grid) P1 = some (ZP, some M02) :=
  readBoardAux_step P2 5 (⟨N2, N2, N0, N0, N0, N1, N2, N1, N0⟩ : Grid) P1 [M02, M10, M11, M22] rfl rfl
    (collectScores_cons v221001210 (collectScores_cons v220101210 (collectScores_cons v220011210 (collectScores_cons v220001211 collectScores_nil)))) rfl

theorem v220001012 : readBoardAux P2 6 (⟨N2, N2, N0, N0, N0, N1, N0, N1, N2⟩ : Grid) P1 = some (ZP, some M02) :=
  readBoardAux_step P2 5 (⟨N2, N2, N0, N0, N0, N1, N0, N1, N2⟩ : Grid) P1 [M02, M10, M11, M20] rfl rfl
    (collectScores_cons v221001012 (collectScores_cons v220101012 (collectScores_cons v220011012 (collectScores_cons v220001112 collectScores_nil)))) rfl

theorem v220001010 : readBoardAux P2 7 (⟨N2, N2, N0, N0, N0, N1, N0, N1, N0⟩ : Grid) P2 = some (ZP, some M02) :=
  readBoardAux_step P2 6 (⟨N2, N2, N0, N0, N0, N1, N0, N1, N0⟩ : Grid) P2 [M02, M10, M11, M20, M22] rfl rfl
    (collectScores_cons t222001010 (collectScores_cons v220201010 (collectScores_cons v220021010 (collectScores_cons v220001210 (collectScores_cons v220001012 collectScores_nil))))) rfl

theorem t222001001 : readBoardAux P2 6 (⟨N2, N2, N2, N0, N0, N1, N0, N0, N1⟩ : Grid) P1 = some (ZP, none) :=
  rfl

theorem v220201001 : readBoardAux P2 6 (⟨N2, N2, N0, N2, N0, N1, N0, N0, N1⟩ : Grid) P1 = some (ZM, some M02) :=
  readBoardAux_step P2 5 (⟨N2, N2, N0, N2, N0, N1, N0, N0, N1⟩ : Grid) P1 [M02, M11, M20, M21] rfl rfl
    (collectScores_cons t221201001 (collectScores_cons v220211001 (collectScores_cons v220201101 (collectScores_cons v220201011 collectScores_nil)))) rfl

theorem v220021001 : readBoardAux P2 6 (⟨N2, N2, N0, N0, N2, N1, N0, N0, N1⟩ : Grid) P1 = some (ZM, some M02) :=
  readBoardAux_step P2 5 (⟨N2, N2, N0, N0, N2, N1, N0, N0, N1⟩ : Grid) P1 [M02, M10, M20, M21] rfl rfl
    (collectScores_cons t221021001 (collectScores_cons v220121001 (collectScores_cons v220021101 (collectScores_cons v220021011 collectScores_nil)))) rfl

theorem v220001201 : readBoardAux P2 6 (⟨N2, N2, N0, N0, N0, N1, N2, N0, N1⟩ : Grid) P1 = some (ZM, some M02) :=
  readBoardAux_step P2 5 (⟨N2, N2, N0, N0, N0, N1, N2, N0, N1⟩ : Grid) P1 [M02, M10, M11, M21] rfl rfl
    (collectScores_cons t221001201 (collectScores_cons v220101201 (collectScores_cons v220011201 (collectScores_cons v220001211 collectScores_nil)))) rfl

theorem v220001021 : readBoardAux P2 6 (⟨N2, N2, N0, N0, N0, N1, N0, N2, N1⟩ : Grid) P1 = some (ZM, some M02) :=
  readBoardAux_step P2 5 (⟨N2, N2, N0, N0, N0, N1, N0, N2, N1⟩ : Grid) P1 [M02, M10, M11, M20] rfl rfl
    (collectScores_cons t221001021 (collectScores_cons v220101021 (collectScores_cons v220011021 (collectScores_cons v220001121 collectScores_nil)))) rfl

theorem v220001001 : readBoardAux P2 7 (⟨N2, N2, N0, N0, N0, N1, N0, N0, N1⟩ : Grid) P2 = some (ZP, some M02) :=
  readBoardAux_step P2 6 (⟨N2, N2, N0, N0, N0, N1, N0, N0, N1⟩ : Grid) P2 [M02, M10, M11, M20, M21] rfl rfl
    (collectScores_cons t222001001 (collectScores_cons v220201001 (collectScores_cons v220021001 (collectScores_cons v220001201 (collectScores_cons v220001021 collectScores_nil))))) rfl

theorem v220001000 : readBoardAux P2 8 (⟨N2, N2, N0, N0, N0, N1, N0, N0, N0⟩ : Grid) P1 = some (ZM, some M02) :=
  readBoardAux_step P2 7 (⟨N2, N2, N0, N0, N0, N1, N0, N0, N0⟩ : Grid) P1 [M02, M10, M11, M20, M21, M22] rfl rfl
    (collectScores_cons v221001000 (collectScores_cons v220101000 (collectScores_cons v220011000 (collectScores_cons v220001100 (collectScores_cons v220001010 (collectScores_cons v220001001 collectScores_nil)))))) rfl

theorem t202221111 : readBoardAux P2 3 (⟨N2, N0, N2, N2, N2, N1, N1, N1, N1⟩ : Grid) P2 = some (ZM, none) :=
  rfl

theorem v202221110 : readBoardAux P2 4 (⟨N2, N0, N2, N2, N2, N1, N1, N1, N0⟩ : Grid) P1 = some (ZM, some M22) :=
  readBoardAux_step P2 3 (⟨N2, N0, N2, N2, N2, N1, N1, N1, N0⟩ : Grid) P1 [M01, M22] rfl rfl
    (collectScores_cons v212221110 (collectScores_cons t202221111 collectScores_nil)) rfl

theorem v202201112 : readBoardAux P2 4 (⟨N2, N0, N2, N2, N0, N1, N1, N1, N2⟩ : Grid) P1 = some (ZP, some M01) :=
  readBoardAux_step P2 3 (⟨N2, N0, N2, N2, N0, N1, N1, N1, N2⟩ : Grid) P1 [M01, M11] rfl rfl
    (collectScores_cons v212201112 (collectScores_cons v202211112 collectScores_nil)) rfl

theorem v202201110 : readBoardAux P2 5 (⟨N2, N0, N2, N2, N0, N1, N1, N1, N0⟩ : Grid) P2 = some (ZP, some M01) :=
  readBoardAux_step P2 4 (⟨N2, N0, N2, N2, N0, N1, N1, N1, N0⟩ : Grid) P2 [M01, M11, M22] rfl rfl
    (collectScores_cons t222201110 (collectScores_cons v202221110 (collectScores_cons v202201112 collectScores_nil))) rfl

theorem v202221101 : readBoardAux P2 4 (⟨N2, N0, N2, N2, N2, N1, N1, N0, N1⟩ : Grid) P1 = some (ZM, some M21) :=
  readBoardAux_step P2 3 (⟨N2, N0, N2, N2, N2, N1, N1, N0, N1⟩ : Grid) P1 [M01, M21] rfl rfl
    (collectScores_cons v212221101 (collectScores_cons t202221111 collectScores_nil)) rfl

theorem v202201121 : readBoardAux P2 4 (⟨N2, N0, N2, N2, N0, N1, N1, N2, N1⟩ : Grid) P1 = some (Z0, some M01) :=
  readBoardAux_step P2 3 (⟨N2, N0, N2, N2, N0, N1, N1, N2, N1⟩ : Grid) P1 [M01, M11] rfl rfl
    (collectScores_cons v212201121 (collectScores_cons v202211121 collectScores_nil)) rfl

theorem v202201101 : readBoardAux P2 5 (⟨N2, N0, N2, N2, N0, N1, N1, N0, N1⟩ : Grid) P2 = some (ZP, some M01) :=
  readBoardAux_step P2 4 (⟨N2, N0, N2, N2, N0, N1, N1, N0, N1⟩ : Grid) P2 [M01, M11, M21] rfl rfl
    (collectScores_cons t222201101 (collectScores_cons v202221101 (collectScores_cons v202201121 collectScores_nil))) rfl

theorem v202201100 : readBoardAux P2 6 (⟨N2, N0, N2, N2, N0, N1, N1, N0, N0⟩ : Grid) P1 = some (Z0, some M01) :=
  readBoardAux_step P2 5 (⟨N2, N0, N2, N2, N0, N1, N1, N0, N0⟩ : Grid) P1 [M01, M11, M21, M22] rfl rfl
    (collectScores_cons v212201100 (collectScores_cons v202211100 (collectScores_cons v202201110 (collectScores_cons v202201101 collectScores_nil)))) rfl

theorem t202021112 : readBoardAux P2 4 (⟨N2, N0, N2, N0, N2, N1, N1, N1, N2⟩ : Grid) P1 = some (ZP, none) :=
  rfl

theorem v202021110 : readBoardAux P2 5 (⟨N2, N0, N2, N0, N2, N1, N1, N1, N0⟩ : Grid) P2 = some (ZP, some M01) :=
  readBoardAux_step P2 4 (⟨N2, N0, N2, N0, N2, N1, N1, N1, N0⟩ : Grid) P2 [M01, M10, M22] rfl rfl
    (collectScores_cons t222021110 (collectScores_cons v202221110 (collectScores_cons t202021112 collectScores_nil))) rfl

theorem v202021121 : readBoardAux P2 4 (⟨N2, N0, N2, N0, N2, N1, N1, N2, N1⟩ : Grid) P1 = some (Z0, some M01) :=
  readBoardAux_step P2 3 (⟨N2, N0, N2, N0, N2, N1, N1, N2, N1⟩ : Grid) P1 [M01, M10] rfl rfl
    (collectScores_cons v212021121 (collectScores_cons v202121121 collectScores_nil)) rfl

theorem v202021101 : readBoardAux P2 5 (⟨N2, N0, N2, N0, N2, N1, N1, N0, N1⟩ : Grid) P2 = some (ZP, some M01) :=
  readBoardAux_step P2 4 (⟨N2, N0, N2, N0, N2, N1, N1, N0, N1⟩ : Grid) P2 [M01, M10, M21] rfl rfl
    (collectScores_cons t222021101 (collectScores_cons v202221101 (collectScores_cons v202021121 collectScores_nil))) rfl

theorem v202021100 : readBoardAux P2 6 (⟨N2, N0, N2, N0, N2, N1, N1, N0, N0⟩ : Grid) P1 = some (ZP, some M01) :=
  readBoardAux_step P2 5 (⟨N2, N0, N2, N0, N2, N1, N1, N0, N0⟩ : Grid) P1 [M01, M10, M21, M22] rfl rfl
    (collectScores_cons v212021100 (collectScores_cons v202121100 (collectScores_cons v202021110 (collectScores_cons v202021101 collectScores_nil)))) rfl

theorem v202001121 : readBoardAux P2 5 (⟨N2, N0, N2, N0, N0, N1, N1, N2, N1⟩ : Grid) P2 = some (ZP, some M01) :=
  readBoardAux_step P2 4 (⟨N2, N0, N2, N0, N0, N1, N1, N2, N1⟩ : Grid) P2 [M01, M10, M11] rfl rfl
    (collectScores_cons t222001121 (collectScores_cons v202201121 (collectScores_cons v202021121 collectScores_nil))) rfl

theorem v202001120 : readBoardAux P2 6 (⟨N2, N0, N2, N0, N0, N1, N1, N2, N0⟩ : Grid) P1 = some (Z0, some M01) :=
  readBoardAux_step P2 5 (⟨N2, N0, N2, N0, N0, N1, N1, N2, N0⟩ : Grid) P1 [M01, M10, M11, M22] rfl rfl
    (collectScores_cons v212001120 (collectScores_cons v202101120 (collectScores_cons v202011120 (collectScores_cons v202001121 collectScores_nil)))) rfl

theorem v202001112 : readBoardAux P2 5 (⟨N2, N0, N2, N0, N0, N1, N1, N1, N2⟩ : Grid) P2 = some (ZP, some M01) :=
  readBoardAux_step P2 4 (⟨N2, N0, N2, N0, N0, N1, N1, N1, N2⟩ : Grid) P2 [M01, M10, M11] rfl rfl
    (collectScores_cons t222001112 (collectScores_cons v202201112 (collectScores_cons t202021112 collectScores_nil))) rfl

theorem v202001102 : readBoardAux P2 6 (⟨N2, N0, N2, N0, N0, N1, N1, N0, N2⟩ : Grid) P1 = some (ZP, some M01) :=
  readBoardAux_step P2 5 (⟨N2, N0, N2, N0, N0, N1, N1, N0, N2⟩ : Grid) P1 [M01, M10, M11, M21] rfl rfl
    (collectScores_cons v212001102 (collectScores_cons v202101102 (collectScores_cons v202011102 (collectScores_cons v202001112 collectScores_nil)))) rfl

theorem v202001100 : readBoardAux P2 7 (⟨N2, N0, N2, N0, N0, N1, N1, N0, N0⟩ : Grid) P2 = some (ZP, some M01) :=
  readBoardAux_step P2 6 (⟨N2, N0, N2, N0, N0, N1, N1, N0, N0⟩ : Grid) P2 [M01, M10, M11, M21, M22] rfl rfl
    (collectScores_cons t222001100 (collectScores_cons v202201100 (collectScores_cons v202021100 (collectScores_cons v202001120 (collectScores_cons v202001102 collectScores_nil))))) rfl

theorem v202221011 : readBoardAux P2 4 (⟨N2, N0, N2, N2, N2, N1, N0, N1, N1⟩ : Grid) P1 = some (ZM, some M20) :=
  readBoardAux_step P2 3 (⟨N2, N0, N2, N2, N2, N1, N0, N1, N1⟩ : Grid) P1 [M01, M20] rfl rfl
    (collectScores_cons v212221011 (collectScores_cons t202221111 collectScores_nil)) rfl

theorem t202201211 : readBoardAux P2 4 (⟨N2, N0, N2, N2, N0, N1, N2, N1, N1⟩ : Grid) P1 = some (ZP, none) :=
  rfl

theorem v202201011 : readBoardAux P2 5 (⟨N2, N0, N2, N2, N0, N1, N0, N1, N1⟩ : Grid) P2 = some (ZP, some M01) :=
  readBoardAux_step P2 4 (⟨N2, N0, N2, N2, N0, N1, N0, N1, N1⟩ : Grid) P2 [M01, M11, M20] rfl rfl
    (collectScores_cons t222201011 (collectScores_cons v202221011 (collectScores_cons t202201211 collectScores_nil))) rfl

theorem v202201010 : readBoardAux P2 6 (⟨N2, N0, N2, N2, N0, N1, N0, N1, N0⟩ : Grid) P1 = some (ZP, some M01) :=
  readBoardAux_step P2 5 (⟨N2, N0, N2, N2, N0, N1, N0, N1, N0⟩ : Grid) P1 [M01, M11, M20, M22] rfl rfl
    (collectScores_cons v212201010 (collectScores_cons v202211010 (collectScores_cons v202201110 (collectScores_cons v202201011 collectScores_nil)))) rfl

theorem t202021211 : readBoardAux P2 4 (⟨N2, N0, N2, N0, N2, N1, N2, N1, N1⟩ : Grid) P1 = some (ZP, none) :=
  rfl

theorem v202021011 : readBoardAux P2 5 (⟨N2, N0, N2, N0, N2, N1, N0, N1, N1⟩ : Grid) P2 = some (ZP, some M01) :=
  readBoardAux_step P2 4 (⟨N2, N0, N2, N0, N2, N1, N0, N1, N1⟩ : Grid) P2 [M01, M10, M20] rfl rfl
    (collectScores_cons t222021011 (collectScores_cons v202221011 (collectScores_cons t202021211 collectScores_nil))) rfl

theorem v202021010 : readBoardAux P2 6 (⟨N2, N0, N2, N0, N2, N1, N0, N1, N0⟩ : Grid) P1 = some (ZP, some M01) :=
  readBoardAux_step P2 5 (⟨N2, N0, N2, N0, N2, N1, N0, N1, N0⟩ : Grid) P1 [M01, M10, M20, M22] rfl rfl
    (collectScores_cons v212021010 (collectScores_cons v202121010 (collectScores_cons v202021110 (collectScores_cons v202021011 collectScores_nil)))) rfl

theorem v202001211 : readBoardAux P2 5 (⟨N2, N0, N2, N0, N0, N1, N2, N1, N1⟩ : Grid) P2 = some (ZP, some M01) :=
  readBoardAux_step P2 4 (⟨N2, N0, N2, N0, N0, N1, N2, N1, N1⟩ : Grid) P2 [M01, M10, M11] rfl rfl
    (collectScores_cons t222001211 (collectScores_cons t202201211 (collectScores_cons t202021211 collectScores_nil))) rfl

theorem v202001210 : readBoardAux P2 6 (⟨N2, N0, N2, N0, N0, N1, N2, N1, N0⟩ : Grid) P1 = some (ZP, some M01) :=
  readBoardAux_step P2 5 (⟨N2, N0, N2, N0, N0, N1, N2, N1, N0⟩ : Grid) P1 [M01, M10, M11, M22] rfl rfl
    (collectScores_cons v212001210 (collectScores_cons v202101210 (collectScores_cons v202011210 (collectScores_cons v202001211 collectScores_nil)))) rfl

theorem v202001012 : readBoardAux P2 6 (⟨N2, N0, N2, N0, N0, N1, N0, N1, N2⟩ : Grid) P1 = some (ZP, some M01) :=
  readBoardAux_step P2 5 (⟨N2, N0, N2, N0, N0, N1, N0, N1, N2⟩ : Grid) P1 [M01, M10, M11, M20] rfl rfl
    (collectScores_cons v212001012 (collectScores_cons v202101012 (collectScores_cons v202011012 (collectScores_cons v202001112 collectScores_nil)))) rfl

theorem v202001010 : readBoardAux P2 7 (⟨N2, N0, N2, N0, N0, N1, N0, N1, N0⟩ : Grid) P2 = some (ZP, some M01) :=
  readBoardAux_step P2 6 (⟨N2, N0, N2, N0, N0, N1, N0, N1, N0⟩ : Grid) P2 [M01, M10, M11, M20, M22] rfl rfl
    (collectScores_cons t222001010 (collectScores_cons v202201010 (collectScores_cons v202021010 (collectScores_cons v202001210 (collectScores_cons v202001012 collectScores_nil))))) rfl

theorem v202201001 : readBoardAux P2 6 (⟨N2, N0, N2, N2, N0, N1, N0, N0, N1⟩ : Grid) P1 = some (ZP, some M01) :=
  readBoardAux_step P2 5 (⟨N2, N0, N2, N2, N0, N1, N0, N0, N1⟩ : Grid) P1 [M01, M11, M20, M21] rfl rfl
    (collectScores_cons v212201001 (collectScores_cons v202211001 (collectScores_cons v202201101 (collectScores_cons v202201011 collectScores_nil)))) rfl

theorem v202021001 : readBoardAux P2 6 (⟨N2, N0, N2, N0, N2, N1, N0, N0, N1⟩ : Grid) P1 = some (ZP, some M01) :=
  readBoardAux_step P2 5 (⟨N2, N0, N2, N0, N2, N1, N0, N0, N1⟩ : Grid) P1 [M01, M10, M20, M21] rfl rfl
    (collectScores_cons v212021001 (collectScores_cons v202121001 (collectScores_cons v202021101 (collectScores_cons v202021011 collectScores_nil)))) rfl

theorem v202001201 : readBoardAux P2 6 (⟨N2, N0, N2, N0, N0, N1, N2, N0, N1⟩ : Grid) P1 = some (ZP, some M01) :=
  readBoardAux_step P2 5 (⟨N2, N0, N2, N0, N0, N1, N2, N0, N1⟩ : Grid) P1 [M01, M10, M11, M21] rfl rfl
    (collectScores_cons v212001201 (collectScores_cons v202101201 (collectScores_cons v202011201 (collectScores_cons v202001211 collectScores_nil)))) rfl

theorem v202001021 : readBoardAux P2 6 (⟨N2, N0, N2, N0, N0, N1, N0, N2, N1⟩ : Grid) P1 = some (ZP, some M01) :=
  readBoardAux_step P2 5 (⟨N2, N0, N2, N0, N0, N1, N0, N2, N1⟩ : Grid) P1 [M01, M10, M11, M20] rfl rfl
    (collectScores_cons v212001021 (collectScores_cons v202101021 (collectScores_cons v202011021 (collectScores_cons v202001121 collectScores_nil)))) rfl

theorem v202001001 : readBoardAux P2 7 (⟨N2, N0, N2, N0, N0, N1, N0, N0, N1⟩ : Grid) P2 = some (ZP, some M01) :=
  readBoardAux_step P2 6 (⟨N2, N0, N2, N0, N0, N1, N0, N0, N1⟩ : Grid) P2 [M01, M10, M11, M20, M21] rfl rfl
    (collectScores_cons t222001001 (collectScores_cons v202201001 (collectScores_cons v202021001 (collectScores_cons v202001201 (collectScores_cons v202001021 collectScores_nil))))) rfl

theorem v202001000 : readBoardAux P2 8 (⟨N2, N0, N2, N0, N0, N1, N0, N0, N0⟩ : Grid) P1 = some (ZP, some M01) :=
  readBoardAux_step P2 7 (⟨N2, N0, N2, N0, N0, N1, N0, N0, N0⟩ : Grid) P1 [M01, M10, M11, M20, M21, M22] rfl rfl
    (collectScores_cons v212001000 (collectScores_cons v202101000 (collectScores_cons v202011000 (collectScores_cons v202001100 (collectScores_cons v202001010 (collectScores_cons v202001001 collectScores_nil)))))) rfl

theorem t200221112 : readBoardAux P2 4 (⟨N2, N0, N0, N2, N2, N1, N1, N1, N2⟩ : Grid) P1 = some (ZP, none) :=
  rfl

theorem v200221110 : readBoardAux P2 5 (⟨N2, N0, N0, N2, N2, N1, N1, N1, N0⟩ : Grid) P2 = some (ZP, some M22) :=
  readBoardAux_step P2 4 (⟨N2, N0, N0, N2, N2, N1, N1, N1, N0⟩ : Grid) P2 [M01, M02, M22] rfl rfl
    (collectScores_cons v220221110 (collectScores_cons v202221110 (collectScores_cons t200221112 collectScores_nil))) rfl

theorem v200221121 : readBoardAux P2 4 (⟨N2, N0, N0, N2, N2, N1, N1, N2, N1⟩ : Grid) P1 = some (ZM, some M02) :=
  readBoardAux_step P2 3 (⟨N2, N0, N0, N2, N2, N1, N1, N2, N1⟩ : Grid) P1 [M01, M02] rfl rfl
    (collectScores_cons v210221121 (collectScores_cons t201221121 collectScores_nil)) rfl

theorem v200221101 : readBoardAux P2 5 (⟨N2, N0, N0, N2, N2, N1, N1, N0, N1⟩ : Grid) P2 = some (ZM, some M01) :=
  readBoardAux_step P2 4 (⟨N2, N0, N0, N2, N2, N1, N1, N0, N1⟩ : Grid) P2 [M01, M02, M21] rfl rfl
    (collectScores_cons v220221101 (collectScores_cons v202221101 (collectScores_cons v200221121 collectScores_nil))) rfl

theorem v200221100 : readBoardAux P2 6 (⟨N2, N0, N0, N2, N2, N1, N1, N0, N0⟩ : Grid) P1 = some (ZM, some M22) :=
  readBoardAux_step P2 5 (⟨N2, N0, N0, N2, N2, N1, N1, N0, N0⟩ : Grid) P1 [M01, M02, M21, M22] rfl rfl
    (collectScores_cons v210221100 (collectScores_cons v201221100 (collectScores_cons v200221110 (collectScores_cons v200221101 collectScores_nil)))) rfl

theorem v200201121 : readBoardAux P2 5 (⟨N2, N0, N0, N2, N0, N1, N1, N2, N1⟩ : Grid) P2 = some (Z0, some M02) :=
  readBoardAux_step P2 4 (⟨N2, N0, N0, N2, N0, N1, N1, N2, N1⟩ : Grid) P2 [M01, M02, M11] rfl rfl
    (collectScores_cons v220201121 (collectScores_cons v202201121 (collectScores_cons v200221121 collectScores_nil))) rfl

theorem v200201120 : readBoardAux P2 6 (⟨N2, N0, N0, N2, N0, N1, N1, N2, N0⟩ : Grid) P1 = some (ZM, some M02) :=
  readBoardAux_step P2 5 (⟨N2, N0, N0, N2, N0, N1, N1, N2, N0⟩ : Grid) P1 [M01, M02, M11, M22] rfl rfl
    (collectScores_cons v210201120 (collectScores_cons v201201120 (collectScores_cons v200211120 (collectScores_cons v200201121 collectScores_nil)))) rfl

theorem v200201112 : readBoardAux P2 5 (⟨N2, N0, N0, N2, N0, N1, N1, N1, N2⟩ : Grid) P2 = some (ZP, some M01) :=
  readBoardAux_step P2 4 (⟨N2, N0, N0, N2, N0, N1, N1, N1, N2⟩ : Grid) P2 [M01, M02, M11] rfl rfl
    (collectScores_cons v220201112 (collectScores_cons v202201112 (collectScores_cons t200221112 collectScores_nil))) rfl

theorem v200201102 : readBoardAux P2 6 (⟨N2, N0, N0, N2, N0, N1, N1, N0, N2⟩ : Grid) P1 = some (Z0, some M11) :=
  readBoardAux_step P2 5 (⟨N2, N0, N0, N2, N0, N1, N1, N0, N2⟩ : Grid) P1 [M01, M02, M11, M21] rfl rfl
    (collectScores_cons v210201102 (collectScores_cons v201201102 (collectScores_cons v200211102 (collectScores_cons v200201112 collectScores_nil)))) rfl

theorem v200201100 : readBoardAux P2 7 (⟨N2, N0, N0, N2, N0, N1, N1, N0, N0⟩ : Grid) P2 = some (Z0, some M02) :=
  readBoardAux_step P2 6 (⟨N2, N0, N0, N2, N0, N1, N1, N0, N0⟩ : Grid) P2 [M01, M02, M11, M21, M22] rfl rfl
    (collectScores_cons v220201100 (collectScores_cons v202201100 (collectScores_cons v200221100 (collectScores_cons v200201120 (collectScores_cons v200201102 collectScores_nil))))) rfl

theorem t200221211 : readBoardAux P2 4 (⟨N2, N0, N0, N2, N2, N1, N2, N1, N1⟩ : Grid) P1 = some (ZP, none) :=
  rfl

theorem v200221011 : readBoardAux P2 5 (⟨N2, N0, N0, N2, N2, N1, N0, N1, N1⟩ : Grid) P2 = some (ZP, some M20) :=
  readBoardAux_step P2 4 (⟨N2, N0, N0, N2, N2, N1, N0, N1, N1⟩ : Grid) P2 [M01, M02, M20] rfl rfl
    (collectScores_cons v220221011 (collectScores_cons v202221011 (collectScores_cons t200221211 collectScores_nil))) rfl

theorem v200221010 : readBoardAux P2 6 (⟨N2, N0, N0, N2, N2, N1, N0, N1, N0⟩ : Grid) P1 = some (ZP, some M01) :=
  readBoardAux_step P2 5 (⟨N2, N0, N0, N2, N2, N1, N0, N1, N0⟩ : Grid) P1 [M01, M02, M20, M22] rfl rfl
    (collectScores_cons v210221010 (collectScores_cons v201221010 (collectScores_cons v200221110 (collectScores_cons v200221011 collectScores_nil)))) rfl

theorem t200201210 : readBoardAux P2 6 (⟨N2, N0, N0, N2, N0, N1, N2, N1, N0⟩ : Grid) P1 = some (ZP, none) :=
  rfl

theorem v200201012 : readBoardAux P2 6 (⟨N2, N0, N0, N2, N0, N1, N0, N1, N2⟩ : Grid) P1 = some (ZP, some M01) :=
  readBoardAux_step P2 5 (⟨N2, N0, N0, N2, N0, N1, N0, N1, N2⟩ : Grid) P1 [M01, M02, M11, M20] rfl rfl
    (collectScores_cons v210201012 (collectScores_cons v201201012 (collectScores_cons v200211012 (collectScores_cons v200201112 collectScores_nil)))) rfl

theorem v200201010 : readBoardAux P2 7 (⟨N2, N0, N0, N2, N0, N1, N0, N1, N0⟩ : Grid) P2 = some (ZP, some M01) :=
  readBoardAux_step P2 6 (⟨N2, N0, N0, N2, N0, N1, N0, N1, N0⟩ : Grid) P2 [M01, M02, M11, M20, M22] rfl rfl
    (collectScores_cons v220201010 (collectScores_cons v202201010 (collectScores_cons v200221010 (collectScores_cons t200201210 (collectScores_cons v200201012 collectScores_nil))))) rfl

theorem v200221001 : readBoardAux P2 6 (⟨N2, N0, N0, N2, N2, N1, N0, N0, N1⟩ : Grid) P1 = some (ZM, some M02) :=
  readBoardAux_step P2 5 (⟨N2, N0, N0, N2, N2, N1, N0, N0, N1⟩ : Grid) P1 [M01, M02, M20, M21] rfl rfl
    (collectScores_cons v210221001 (collectScores_cons t201221001 (collectScores_cons v200221101 (collectScores_cons v200221011 collectScores_nil)))) rfl

theorem t200201201 : readBoardAux P2 6 (⟨N2, N0, N0, N2, N0, N1, N2, N0, N1⟩ : Grid) P1 = some (ZP, none) :=
  rfl

theorem v200201021 : readBoardAux P2 6 (⟨N2, N0, N0, N2, N0, N1, N0, N2, N1⟩ : Grid) P1 = some (ZM, some M02) :=
  readBoardAux_step P2 5 (⟨N2, N0, N0, N2, N0, N1, N0, N2, N1⟩ : Grid) P1 [M01, M02, M11, M20] rfl rfl
    (collectScores_cons v210201021 (collectScores_cons t201201021 (collectScores_cons v200211021 (collectScores_cons v200201121 collectScores_nil)))) rfl

theorem v200201001 : readBoardAux P2 7 (⟨N2, N0, N0, N2, N0, N1, N0, N0, N1⟩ : Grid) P2 = some (ZP, some M02) :=
  readBoardAux_step P2 6 (⟨N2, N0, N0, N2, N0, N1, N0, N0, N1⟩ : Grid) P2 [M01, M02, M11, M20, M21] rfl rfl
    (collectScores_cons v220201001 (collectScores_cons v202201001 (collectScores_cons v200221001 (collectScores_cons t200201201 (collectScores_cons v200201021 collectScores_nil))))) rfl

theorem v200201000 : readBoardAux P2 8 (⟨N2, N0, N0, N2, N0, N1, N0, N0, N0⟩ : Grid) P1 = some (Z0, some M20) :=
  readBoardAux_step P2 7 (⟨N2, N0, N0, N2, N0, N1, N0, N0, N0⟩ : Grid) P1 [M01, M02, M11, M20, M21, M22] rfl rfl
    (collectScores_cons v210201000 (collectScores_cons v201201000 (collectScores_cons v200211000 (collectScores_cons v200201100 (collectScores_cons v200201010 (collectScores_cons v200201001 collectScores_nil)))))) rfl

theorem v200021121 : readBoardAux P2 5 (⟨N2, N0, N0, N0, N2, N1, N1, N2, N1⟩ : Grid) P2 = some (ZP, some M01) :=
  readBoardAux_step P2 4 (⟨N2, N0, N0, N0, N2, N1, N1, N2, N1⟩ : Grid) P2 [M01, M02, M10] rfl rfl
    (collectScores_cons t220021121 (collectScores_cons v202021121 (collectScores_cons v200221121 collectScores_nil))) rfl

theorem v200021120 : readBoardAux P2 6 (⟨N2, N0, N0, N0, N2, N1, N1, N2, N0⟩ : Grid) P1 = some (ZP, some M01) :=
  readBoardAux_step P2 5 (⟨N2, N0, N0, N0, N2, N1, N1, N2, N0⟩ : Grid) P1 [M01, M02, M10, M22] rfl rfl
    (collectScores_cons v210021120 (collectScores_cons v201021120 (collectScores_cons v200121120 (collectScores_cons v200021121 collectScores_nil)))) rfl

theorem t200021102 : readBoardAux P2 6 (⟨N2, N0, N0, N0, N2, N1, N1, N0, N2⟩ : Grid) P1 = some (ZP, none) :=
  rfl

theorem v200021100 : readBoardAux P2 7 (⟨N2, N0, N0, N0, N2, N1, N1, N0, N0⟩ : Grid) P2 = some (ZP, some M01) :=
  readBoardAux_step P2 6 (⟨N2, N0, N0, N0, N2, N1, N1, N0, N0⟩ : Grid) P2 [M01, M02, M10, M21, M22] rfl rfl
    (collectScores_cons v220021100 (collectScores_cons v202021100 (collectScores_cons v200221100 (collectScores_cons v200021120 (collectScores_cons t200021102 collectScores_nil))))) rfl

theorem v200021211 : readBoardAux P2 5 (⟨N2, N0, N0, N0, N2, N1, N2, N1, N1⟩ : Grid) P2 = some (ZP, some M02) :=
  readBoardAux_step P2 4 (⟨N2, N0, N0, N0, N2, N1, N2, N1, N1⟩ : Grid) P2 [M01, M02, M10] rfl rfl
    (collectScores_cons v220021211 (collectScores_cons t202021211 (collectScores_cons t200221211 collectScores_nil))) rfl

theorem v200021210 : readBoardAux P2 6 (⟨N2, N0, N0, N0, N2, N1, N2, N1, N0⟩ : Grid) P1 = some (ZP, some M01) :=
  readBoardAux_step P2 5 (⟨N2, N0, N0, N0, N2, N1, N2, N1, N0⟩ : Grid) P1 [M01, M02, M10, M22] rfl rfl
    (collectScores_cons v210021210 (collectScores_cons v201021210 (collectScores_cons v200121210 (collectScores_cons v200021211 collectScores_nil)))) rfl

theorem t200021012 : readBoardAux P2 6 (⟨N2, N0, N0, N0, N2, N1, N0, N1, N2⟩ : Grid) P1 = some (ZP, none) :=
  rfl

theorem v200021010 : readBoardAux P2 7 (⟨N2, N0, N0, N0, N2, N1, N0, N1, N0⟩ : Grid) P2 = some (ZP, some M01) :=
  readBoardAux_step P2 6 (⟨N2, N0, N0, N0, N2, N1, N0, N1, N0⟩ : Grid) P2 [M01, M02, M10, M20, M22] rfl rfl
    (collectScores_cons v220021010 (collectScores_cons v202021010 (collectScores_cons v200221010 (collectScores_cons v200021210 (collectScores_cons t200021012 collectScores_nil))))) rfl

theorem v200021201 : readBoardAux P2 6 (⟨N2, N0, N0, N0, N2, N1, N2, N0, N1⟩ : Grid) P1 = some (ZM, some M02) :=
  readBoardAux_step P2 5 (⟨N2, N0, N0, N0, N2, N1, N2, N0, N1⟩ : Grid) P1 [M01, M02, M10, M21] rfl rfl
    (collectScores_cons v210021201 (collectScores_cons t201021201 (collectScores_cons v200121201 (collectScores_cons v200021211 collectScores_nil)))) rfl

theorem v200021021 : readBoardAux P2 6 (⟨N2, N0, N0, N0, N2, N1, N0, N2, N1⟩ : Grid) P1 = some (ZM, some M02) :=
  readBoardAux_step P2 5 (⟨N2, N0, N0, N0, N2, N1, N0, N2, N1⟩ : Grid) P1 [M01, M02, M10, M20] rfl rfl
    (collectScores_cons v210021021 (collectScores_cons t201021021 (collectScores_cons v200121021 (collectScores_cons v200021121 collectScores_nil)))) rfl

theorem v200021001 : readBoardAux P2 7 (⟨N2, N0, N0, N0, N2, N1, N0, N0, N1⟩ : Grid) P2 = some (ZP, some M02) :=
  readBoardAux_step P2 6 (⟨N2, N0, N0, N0, N2, N1, N0, N0, N1⟩ : Grid) P2 [M01, M02, M10, M20, M21] rfl rfl
    (collectScores_cons v220021001 (collectScores_cons v202021001 (collectScores_cons v200221001 (collectScores_cons v200021201 (collectScores_cons v200021021 collectScores_nil))))) rfl

theorem v200021000 : readBoardAux P2 8 (⟨N2, N0, N0, N0, N2, N1, N0, N0, N0⟩ : Grid) P1 = some (ZP, some M01) :=
  readBoardAux_step P2 7 (⟨N2, N0, N0, N0, N2, N1, N0, N0, N0⟩ : Grid) P1 [M01, M02, M10, M20, M21, M22] rfl rfl
    (collectScores_cons v210021000 (collectScores_cons v201021000 (collectScores_cons v200121000 (collectScores_cons v200021100 (collectScores_cons v200021010 (collectScores_cons v200021001 collectScores_nil)))))) rfl

theorem v200001212 : readBoardAux P2 6 (⟨N2, N0, N0, N0, N0, N1, N2, N1, N2⟩ : Grid) P1 = some (ZP, some M01) :=
  readBoardAux_step P2 5 (⟨N2, N0, N0, N0, N0, N1, N2, N1, N2⟩ : Grid) P1 [M01, M02, M10, M11] rfl rfl
    (collectScores_cons v210001212 (collectScores_cons v201001212 (collectScores_cons v200101212 (collectScores_cons v200011212 collectScores_nil)))) rfl

theorem v200001210 : readBoardAux P2 7 (⟨N2, N0, N0, N0, N0, N1, N2, N1, N0⟩ : Grid) P2 = some (ZP, some M01) :=
  readBoardAux_step P2 6 (⟨N2, N0, N0, N0, N0, N1, N2, N1, N0⟩ : Grid) P2 [M01, M02, M10, M11, M22] rfl rfl
    (collectScores_cons v220001210 (collectScores_cons v202001210 (collectScores_cons t200201210 (collectScores_cons v200021210 (collectScores_cons v200001212 collectScores_nil))))) rfl

theorem v200001221 : readBoardAux P2 6 (⟨N2, N0, N0, N0, N0, N1, N2, N2, N1⟩ : Grid) P1 = some (ZM, some M02) :=
  readBoardAux_step P2 5 (⟨N2, N0, N0, N0, N0, N1, N2, N2, N1⟩ : Grid) P1 [M01, M02, M10, M11] rfl rfl
    (collectScores_cons v210001221 (collectScores_cons t201001221 (collectScores_cons v200101221 (collectScores_cons v200011221 collectScores_nil)))) rfl

theorem v200001201 : readBoardAux P2 7 (⟨N2, N0, N0, N0, N0, N1, N2, N0, N1⟩ : Grid) P2 = some (ZP, some M02) :=
  readBoardAux_step P2 6 (⟨N2, N0, N0, N0, N0, N1, N2, N0, N1⟩ : Grid) P2 [M01, M02, M10, M11, M21] rfl rfl
    (collectScores_cons v220001201 (collectScores_cons v202001201 (collectScores_cons t200201201 (collectScores_cons v200021201 (collectScores_cons v200001221 collectScores_nil))))) rfl

theorem v200001200 : readBoardAux P2 8 (⟨N2, N0, N0, N0, N0, N1, N2, N0, N0⟩ : Grid) P1 = some (ZP, some M01) :=
  readBoardAux_step P2 7 (⟨N2, N0, N0, N0, N0, N1, N2, N0, N0⟩ : Grid) P1 [M01, M02, M10, M11, M21, M22] rfl rfl
    (collectScores_cons v210001200 (collectScores_cons v201001200 (collectScores_cons v200101200 (collectScores_cons v200011200 (collectScores_cons v200001210 (collectScores_cons v200001201 collectScores_nil)))))) rfl

theorem v200001122 : readBoardAux P2 6 (⟨N2, N0, N0, N0, N0, N1, N1, N2, N2⟩ : Grid) P1 = some (ZM, some M11) :=
  readBoardAux_step P2 5 (⟨N2, N0, N0, N0, N0, N1, N1, N2, N2⟩ : Grid) P1 [M01, M02, M10, M11] rfl rfl
    (collectScores_cons v210001122 (collectScores_cons v201001122 (collectScores_cons v200101122 (collectScores_cons v200011122 collectScores_nil)))) rfl

theorem v200001120 : readBoardAux P2 7 (⟨N2, N0, N0, N0, N0, N1, N1, N2, N0⟩ : Grid) P2 = some (ZP, some M01) :=
  readBoardAux_step P2 6 (⟨N2, N0, N0, N0, N0, N1, N1, N2, N0⟩ : Grid) P2 [M01, M02, M10, M11, M22] rfl rfl
    (collectScores_cons v220001120 (collectScores_cons v202001120 (collectScores_cons v200201120 (collectScores_cons v200021120 (collectScores_cons v200001122 collectScores_nil))))) rfl

theorem v200001021 : readBoardAux P2 7 (⟨N2, N0, N0, N0, N0, N1, N0, N2, N1⟩ : Grid) P2 = some (ZP, some M02) :=
  readBoardAux_step P2 6 (⟨N2, N0, N0, N0, N0, N1, N0, N2, N1⟩ : Grid) P2 [M01, M02, M10, M11, M20] rfl rfl
    (collectScores_cons v220001021 (collectScores_cons v202001021 (collectScores_cons v200201021 (collectScores_cons v200021021 (collectScores_cons v200001221 collectScores_nil))))) rfl

theorem v200001020 : readBoardAux P2 8 (⟨N2, N0, N0, N0, N0, N1, N0, N2, N0⟩ : Grid) P1 = some (Z0, some M11) :=
  readBoardAux_step P2 7 (⟨N2, N0, N0, N0, N0, N1, N0, N2, N0⟩ : Grid) P1 [M01, M02, M10, M11, M20, M22] rfl rfl
    (collectScores_cons v210001020 (collectScores_cons v201001020 (collectScores_cons v200101020 (collectScores_cons v200011020 (collectScores_cons v200001120 (collectScores_cons v200001021 collectScores_nil)))))) rfl

theorem v200001102 : readBoardAux P2 7 (⟨N2, N0, N0, N0, N0, N1, N1, N0, N2⟩ : Grid) P2 = some (ZP, some M01) :=
  readBoardAux_step P2 6 (⟨N2, N0, N0, N0, N0, N1, N1, N0, N2⟩ : Grid) P2 [M01, M02, M10, M11, M21] rfl rfl
    (collectScores_cons v220001102 (collectScores_cons v202001102 (collectScores_cons v200201102 (collectScores_cons t200021102 (collectScores_cons v200001122 collectScores_nil))))) rfl

theorem v200001012 : readBoardAux P2 7 (⟨N2, N0, N0, N0, N0, N1, N0, N1, N2⟩ : Grid) P2 = some (ZP, some M01) :=
  readBoardAux_step P2 6 (⟨N2, N0, N0, N0, N0, N1, N0, N1, N2⟩ : Grid) P2 [M01, M02, M10, M11, M20] rfl rfl
    (collectScores_cons v220001012 (collectScores_cons v202001012 (collectScores_cons v200201012 (collectScores_cons t200021012 (collectScores_cons v200001212 collectScores_nil))))) rfl

theorem v200001002 : readBoardAux P2 8 (⟨N2, N0, N0, N0, N0, N1, N0, N0, N2⟩ : Grid) P1 = some (Z0, some M11) :=
  readBoardAux_step P2 7 (⟨N2, N0, N0, N0, N0, N1, N0, N0, N2⟩ : Grid) P1 [M01, M02, M10, M11, M20, M21] rfl rfl
    (collectScores_cons v210001002 (collectScores_cons v201001002 (collectScores_cons v200101002 (collectScores_cons v200011002 (collectScores_cons v200001102 (collectScores_cons v200001012 collectScores_nil)))))) rfl

theorem v200001000 : readBoardAux P2 9 (⟨N2, N0, N0, N0, N0, N1, N0, N0, N0⟩ : Grid) P2 = some (ZP, some M02) :=
  readBoardAux_step P2 8 (⟨N2, N0, N0, N0, N0, N1, N0, N0, N0⟩ : Grid) P2 [M01, M02, M10, M11, M20, M21, M22] rfl rfl
    (collectScores_cons v220001000 (collectScores_cons v202001000 (collectScores_cons v200201000 (collectScores_cons v200021000 (collectScores_cons v200001200 (collectScores_cons v200001020 (collectScores_cons v200001002 collectScores_nil))))))) rfl

theorem t222000110 : readBoardAux P2 6 (⟨N2, N2, N2, N0, N0, N0, N1, N1, N0⟩ : Grid) P1 = some (ZP, none) :=
  rfl

theorem t220200111 : readBoardAux P2 5 (⟨N2, N2, N0, N2, N0, N0, N1, N1, N1⟩ : Grid) P2 = some (ZM, none) :=
  rfl

theorem v220200110 : readBoardAux P2 6 (⟨N2, N2, N0, N2, N0, N0, N1, N1, N0⟩ : Grid) P1 = some (ZM, some M02) :=
  readBoardAux_step P2 5 (⟨N2, N2, N0, N2, N0, N0, N1, N1, N0⟩ : Grid) P1 [M02, M11, M12, M22] rfl rfl
    (collectScores_cons v221200110 (collectScores_cons v220210110 (collectScores_cons v220201110 (collectScores_cons t220200111 collectScores_nil)))) rfl

theorem t220020111 : readBoardAux P2 5 (⟨N2, N2, N0, N0, N2, N0, N1, N1, N1⟩ : Grid) P2 = some (ZM, none) :=
  rfl

theorem v220020110 : readBoardAux P2 6 (⟨N2, N2, N0, N0, N2, N0, N1, N1, N0⟩ : Grid) P1 = some (ZM, some M22) :=
  readBoardAux_step P2 5 (⟨N2, N2, N0, N0, N2, N0, N1, N1, N0⟩ : Grid) P1 [M02, M10, M12, M22] rfl rfl
    (collectScores_cons v221020110 (collectScores_cons v220120110 (collectScores_cons v220021110 (collectScores_cons t220020111 collectScores_nil)))) rfl

theorem t220002111 : readBoardAux P2 5 (⟨N2, N2, N0, N0, N0, N2, N1, N1, N1⟩ : Grid) P2 = some (ZM, none) :=
  rfl

theorem v220002110 : readBoardAux P2 6 (⟨N2, N2, N0, N0, N0, N2, N1, N1, N0⟩ : Grid) P1 = some (ZM, some M02) :=
  readBoardAux_step P2 5 (⟨N2, N2, N0, N0, N0, N2, N1, N1, N0⟩ : Grid) P1 [M02, M10, M11, M22] rfl rfl
    (collectScores_cons v221002110 (collectScores_cons v220102110 (collectScores_cons v220012110 (collectScores_cons t220002111 collectScores_nil)))) rfl

theorem v220000112 : readBoardAux P2 6 (⟨N2, N2, N0, N0, N0, N0, N1, N1, N2⟩ : Grid) P1 = some (ZP, some M02) :=
  readBoardAux_step P2 5 (⟨N2, N2, N0, N0, N0, N0, N1, N1, N2⟩ : Grid) P1 [M02, M10, M11, M12] rfl rfl
    (collectScores_cons v221000112 (collectScores_cons v220100112 (collectScores_cons v220010112 (collectScores_cons v220001112 collectScores_nil)))) rfl

theorem v220000110 : readBoardAux P2 7 (⟨N2, N2, N0, N0, N0, N0, N1, N1, N0⟩ : Grid) P2 = some (ZP, some M02) :=
  readBoardAux_step P2 6 (⟨N2, N2, N0, N0, N0, N0, N1, N1, N0⟩ : Grid) P2 [M02, M10, M11, M12, M22] rfl rfl
    (collectScores_cons t222000110 (collectScores_cons v220200110 (collectScores_cons v220020110 (collectScores_cons v220002110 (collectScores_cons v220000112 collectScores_nil))))) rfl

theorem t222000101 : readBoardAux P2 6 (⟨N2, N2, N2, N0, N0, N0, N1, N0, N1⟩ : Grid) P1 = some (ZP, none) :=
  rfl

theorem v220200101 : readBoardAux P2 6 (⟨N2, N2, N0, N2, N0, N0, N1, N0, N1⟩ : Grid) P1 = some (ZM, some M02) :=
  readBoardAux_step P2 5 (⟨N2, N2, N0, N2, N0, N0, N1, N0, N1⟩ : Grid) P1 [M02, M11, M12, M21] rfl rfl
    (collectScores_cons v221200101 (collectScores_cons v220210101 (collectScores_cons v220201101 (collectScores_cons t220200111 collectScores_nil)))) rfl

theorem v220020101 : readBoardAux P2 6 (⟨N2, N2, N0, N0, N2, N0, N1, N0, N1⟩ : Grid) P1 = some (ZM, some M21) :=
  readBoardAux_step P2 5 (⟨N2, N2, N0, N0, N2, N0, N1, N0, N1⟩ : Grid) P1 [M02, M10, M12, M21] rfl rfl
    (collectScores_cons v221020101 (collectScores_cons v220120101 (collectScores_cons v220021101 (collectScores_cons t220020111 collectScores_nil)))) rfl

theorem v220002101 : readBoardAux P2 6 (⟨N2, N2, N0, N0, N0, N2, N1, N0, N1⟩ : Grid) P1 = some (ZM, some M02) :=
  readBoardAux_step P2 5 (⟨N2, N2, N0, N0, N0, N2, N1, N0, N1⟩ : Grid) P1 [M02, M10, M11, M21] rfl rfl
    (collectScores_cons v221002101 (collectScores_cons v220102101 (collectScores_cons v220012101 (collectScores_cons t220002111 collectScores_nil)))) rfl

theorem v220000121 : readBoardAux P2 6 (⟨N2, N2, N0, N0, N0, N0, N1, N2, N1⟩ : Grid) P1 = some (ZP, some M02) :=
  readBoardAux_step P2 5 (⟨N2, N2, N0, N0, N0, N0, N1, N2, N1⟩ : Grid) P1 [M02, M10, M11, M12] rfl rfl
    (collectScores_cons v221000121 (collectScores_cons v220100121 (collectScores_cons v220010121 (collectScores_cons v220001121 collectScores_nil)))) rfl

theorem v220000101 : readBoardAux P2 7 (⟨N2, N2, N0, N0, N0, N0, N1, N0, N1⟩ : Grid) P2 = some (ZP, some M02) :=
  readBoardAux_step P2 6 (⟨N2, N2, N0, N0, N0, N0, N1, N0, N1⟩ : Grid) P2 [M02, M10, M11, M12, M21] rfl rfl
    (collectScores_cons t222000101 (collectScores_cons v220200101 (collectScores_cons v220020101 (collectScores_cons v220002101 (collectScores_cons v220000121 collectScores_nil))))) rfl

theorem v220000100 : readBoardAux P2 8 (⟨N2, N2, N0, N0, N0, N0, N1, N0, N0⟩ : Grid) P1 = some (ZP, some M02) :=
  readBoardAux_step P2 7 (⟨N2, N2, N0, N0, N0, N0, N1, N0, N0⟩ : Grid) P1 [M02, M10, M11, M12, M21, M22] rfl rfl
    (collectScores_cons v221000100 (collectScores_cons v220100100 (collectScores_cons v220010100 (collectScores_cons v220001100 (collectScores_cons v220000110 (collectScores_cons v220000101 collectScores_nil)))))) rfl

theorem t202200111 : readBoardAux P2 5 (⟨N2, N0, N2, N2, N0, N0, N1, N1, N1⟩ : Grid) P2 = some (ZM, none) :=
  rfl

theorem v202200110 : readBoardAux P2 6 (⟨N2, N0, N2, N2, N0, N0, N1, N1, N0⟩ : Grid) P1 = some (ZM, some M01) :=
  readBoardAux_step P2 5 (⟨N2, N0, N2, N2, N0, N0, N1, N1, N0⟩ : Grid) P1 [M01, M11, M12, M22] rfl rfl
    (collectScores_cons v212200110 (collectScores_cons v202210110 (collectScores_cons v202201110 (collectScores_cons t202200111 collectScores_nil)))) rfl

theorem t202020111 : readBoardAux P2 5 (⟨N2, N0, N2, N0, N2, N0, N1, N1, N1⟩ : Grid) P2 = some (ZM, none) :=
  rfl

theorem v202020110 : readBoardAux P2 6 (⟨N2, N0, N2, N0, N2, N0, N1, N1, N0⟩ : Grid) P1 = some (ZM, some M22) :=
  readBoardAux_step P2 5 (⟨N2, N0, N2, N0, N2, N0, N1, N1, N0⟩ : Grid) P1 [M01, M10, M12, M22] rfl rfl
    (collectScores_cons v212020110 (collectScores_cons v202120110 (collectScores_cons v202021110 (collectScores_cons t202020111 collectScores_nil)))) rfl

theorem t202002111 : readBoardAux P2 5 (⟨N2, N0, N2, N0, N0, N2, N1, N1, N1⟩ : Grid) P2 = some (ZM, none) :=
  rfl

theorem v202002110 : readBoardAux P2 6 (⟨N2, N0, N2, N0, N0, N2, N1, N1, N0⟩ : Grid) P1 = some (ZM, some M22) :=
  readBoardAux_step P2 5 (⟨N2, N0, N2, N0, N0, N2, N1, N1, N0⟩ : Grid) P1 [M01, M10, M11, M22] rfl rfl
    (collectScores_cons v212002110 (collectScores_cons v202102110 (collectScores_cons v202012110 (collectScores_cons t202002111 collectScores_nil)))) rfl

theorem v202000112 : readBoardAux P2 6 (⟨N2, N0, N2, N0, N0, N0, N1, N1, N2⟩ : Grid) P1 = some (ZP, some M01) :=
  readBoardAux_step P2 5 (⟨N2, N0, N2, N0, N0, N0, N1, N1, N2⟩ : Grid) P1 [M01, M10, M11, M12] rfl rfl
    (collectScores_cons v212000112 (collectScores_cons v202100112 (collectScores_cons v202010112 (collectScores_cons v202001112 collectScores_nil)))) rfl

theorem v202000110 : readBoardAux P2 7 (⟨N2, N0, N2, N0, N0, N0, N1, N1, N0⟩ : Grid) P2 = some (ZP, some M01) :=
  readBoardAux_step P2 6 (⟨N2, N0, N2, N0, N0, N0, N1, N1, N0⟩ : Grid) P2 [M01, M10, M11, M12, M22] rfl rfl
    (collectScores_cons t222000110 (collectScores_cons v202200110 (collectScores_cons v202020110 (collectScores_cons v202002110 (collectScores_cons v202000112 collectScores_nil))))) rfl

theorem v202200101 : readBoardAux P2 6 (⟨N2, N0, N2, N2, N0, N0, N1, N0, N1⟩ : Grid) P1 = some (ZM, some M21) :=
  readBoardAux_step P2 5 (⟨N2, N0, N2, N2, N0, N0, N1, N0, N1⟩ : Grid) P1 [M01, M11, M12, M21] rfl rfl
    (collectScores_cons v212200101 (collectScores_cons v202210101 (collectScores_cons v202201101 (collectScores_cons t202200111 collectScores_nil)))) rfl

theorem v202020101 : readBoardAux P2 6 (⟨N2, N0, N2, N0, N2, N0, N1, N0, N1⟩ : Grid) P1 = some (ZM, some M21) :=
  readBoardAux_step P2 5 (⟨N2, N0, N2, N0, N2, N0, N1, N0, N1⟩ : Grid) P1 [M01, M10, M12, M21] rfl rfl
    (collectScores_cons v212020101 (collectScores_cons v202120101 (collectScores_cons v202021101 (collectScores_cons t202020111 collectScores_nil)))) rfl

theorem v202002101 : readBoardAux P2 6 (⟨N2, N0, N2, N0, N0, N2, N1, N0, N1⟩ : Grid) P1 = some (ZM, some M21) :=
  readBoardAux_step P2 5 (⟨N2, N0, N2, N0, N0, N2, N1, N0, N1⟩ : Grid) P1 [M01, M10, M11, M21] rfl rfl
    (collectScores_cons v212002101 (collectScores_cons v202102101 (collectScores_cons v202012101 (collectScores_cons t202002111 collectScores_nil)))) rfl

theorem v202000121 : readBoardAux P2 6 (⟨N2, N0, N2, N0, N0, N0, N1, N2, N1⟩ : Grid) P1 = some (Z0, some M01) :=
  readBoardAux_step P2 5 (⟨N2, N0, N2, N0, N0, N0, N1, N2, N1⟩ : Grid) P1 [M01, M10, M11, M12] rfl rfl
    (collectScores_cons v212000121 (collectScores_cons v202100121 (collectScores_cons v202010121 (collectScores_cons v202001121 collectScores_nil)))) rfl

theorem v202000101 : readBoardAux P2 7 (⟨N2, N0, N2, N0, N0, N0, N1, N0, N1⟩ : Grid) P2 = some (ZP, some M01) :=
  readBoardAux_step P2 6 (⟨N2, N0, N2, N0, N0, N0, N1, N0, N1⟩ : Grid) P2 [M01, M10, M11, M12, M21] rfl rfl
    (collectScores_cons t222000101 (collectScores_cons v202200101 (collectScores_cons v202020101 (collectScores_cons v202002101 (collectScores_cons v202000121 collectScores_nil))))) rfl

theorem v202000100 : readBoardAux P2 8 (⟨N2, N0, N2, N0, N0, N0, N1, N0, N0⟩ : Grid) P1 = some (ZP, some M01) :=
  readBoardAux_step P2 7 (⟨N2, N0, N2, N0, N0, N0, N1, N0, N0⟩ : Grid) P1 [M01, M10, M11, M12, M21, M22] rfl rfl
    (collectScores_cons v212000100 (collectScores_cons v202100100 (collectScores_cons v202010100 (collectScores_cons v202001100 (collectScores_cons v202000110 (collectScores_cons v202000101 collectScores_nil)))))) rfl

theorem t200220111 : readBoardAux P2 5 (⟨N2, N0, N0, N2, N2, N0, N1, N1, N1⟩ : Grid) P2 = some (ZM, none) :=
  rfl

theorem v200220110 : readBoardAux P2 6 (⟨N2, N0, N0, N2, N2, N0, N1, N1, N0⟩ : Grid) P1 = some (ZM, some M22) :=
  readBoardAux_step P2 5 (⟨N2, N0, N0, N2, N2, N0, N1, N1, N0⟩ : Grid) P1 [M01, M02, M12, M22] rfl rfl
    (collectScores_cons v210220110 (collectScores_cons v201220110 (collectScores_cons v200221110 (collectScores_cons t200220111 collectScores_nil)))) rfl

theorem t200202111 : readBoardAux P2 5 (⟨N2, N0, N0, N2, N0, N2, N1, N1, N1⟩ : Grid) P2 = some (ZM, none) :=
  rfl

theorem v200202110 : readBoardAux P2 6 (⟨N2, N0, N0, N2, N0, N2, N1, N1, N0⟩ : Grid) P1 = some (ZM, some M11) :=
  readBoardAux_step P2 5 (⟨N2, N0, N0, N2, N0, N2, N1, N1, N0⟩ : Grid) P1 [M01, M02, M11, M22] rfl rfl
    (collectScores_cons v210202110 (collectScores_cons v201202110 (collectScores_cons v200212110 (collectScores_cons t200202111 collectScores_nil)))) rfl

theorem v200200112 : readBoardAux P2 6 (⟨N2, N0, N0, N2, N0, N0, N1, N1, N2⟩ : Grid) P1 = some (ZM, some M11) :=
  readBoardAux_step P2 5 (⟨N2, N0, N0, N2, N0, N0, N1, N1, N2⟩ : Grid) P1 [M01, M02, M11, M12] rfl rfl
    (collectScores_cons v210200112 (collectScores_cons v201200112 (collectScores_cons v200210112 (collectScores_cons v200201112 collectScores_nil)))) rfl

theorem v200200110 : readBoardAux P2 7 (⟨N2, N0, N0, N2, N0, N0, N1, N1, N0⟩ : Grid) P2 = some (ZM, some M01) :=
  readBoardAux_step P2 6 (⟨N2, N0, N0, N2, N0, N0, N1, N1, N0⟩ : Grid) P2 [M01, M02, M11, M12, M22] rfl rfl
    (collectScores_cons v220200110 (collectScores_cons v202200110 (collectScores_cons v200220110 (collectScores_cons v200202110 (collectScores_cons v200200112 collectScores_nil))))) rfl

theorem v200220101 : readBoardAux P2 6 (⟨N2, N0, N0, N2, N2, N0, N1, N0, N1⟩ : Grid) P1 = some (ZM, some M12) :=
  readBoardAux_step P2 5 (⟨N2, N0, N0, N2, N2, N0, N1, N0, N1⟩ : Grid) P1 [M01, M02, M12, M21] rfl rfl
    (collectScores_cons v210220101 (collectScores_cons v201220101 (collectScores_cons v200221101 (collectScores_cons t200220111 collectScores_nil)))) rfl

theorem v200202101 : readBoardAux P2 6 (⟨N2, N0, N0, N2, N0, N2, N1, N0, N1⟩ : Grid) P1 = some (ZM, some M11) :=
  readBoardAux_step P2 5 (⟨N2, N0, N0, N2, N0, N2, N1, N0, N1⟩ : Grid) P1 [M01, M02, M11, M21] rfl rfl
    (collectScores_cons v210202101 (collectScores_cons v201202101 (collectScores_cons v200212101 (collectScores_cons t200202111 collectScores_nil)))) rfl

theorem v200200121 : readBoardAux P2 6 (⟨N2, N0, N0, N2, N0, N0, N1, N2, N1⟩ : Grid) P1 = some (ZM, some M02) :=
  readBoardAux_step P2 5 (⟨N2, N0, N0, N2, N0, N0, N1, N2, N1⟩ : Grid) P1 [M01, M02, M11, M12] rfl rfl
    (collectScores_cons v210200121 (collectScores_cons v201200121 (collectScores_cons v200210121 (collectScores_cons v200201121 collectScores_nil)))) rfl

theorem v200200101 : readBoardAux P2 7 (⟨N2, N0, N0, N2, N0, N0, N1, N0, N1⟩ : Grid) P2 = some (ZM, some M01) :=
  readBoardAux_step P2 6 (⟨N2, N0, N0, N2, N0, N0, N1, N0, N1⟩ : Grid) P2 [M01, M02, M11, M12, M21] rfl rfl
    (collectScores_cons v220200101 (collectScores_cons v202200101 (collectScores_cons v200220101 (collectScores_cons v200202101 (collectScores_cons v200200121 collectScores_nil))))) rfl

theorem v200200100 : readBoardAux P2 8 (⟨N2, N0, N0, N2, N0, N0, N1, N0, N0⟩ : Grid) P1 = some (ZM, some M21) :=
  readBoardAux_step P2 7 (⟨N2, N0, N0, N2, N0, N0, N1, N0, N0⟩ : Grid) P1 [M01, M02, M11, M12, M21, M22] rfl rfl
    (collectScores_cons v210200100 (collectScores_cons v201200100 (collectScores_cons v200210100 (collectScores_cons v200201100 (collectScores_cons v200200110 (collectScores_cons v200200101 collectScores_nil)))))) rfl

theorem t200022111 : readBoardAux P2 5 (⟨N2, N0, N0, N0, N2, N2, N1, N1, N1⟩ : Grid) P2 = some (ZM, none) :=
  rfl

theorem v200022110 : readBoardAux P2 6 (⟨N2, N0, N0, N0, N2, N2, N1, N1, N0⟩ : Grid) P1 = some (ZM, some M22) :=
  readBoardAux_step P2 5 (⟨N2, N0, N0, N0, N2, N2, N1, N1, N0⟩ : Grid) P1 [M01, M02, M10, M22] rfl rfl
    (collectScores_cons v210022110 (collectScores_cons v201022110 (collectScores_cons v200122110 (collectScores_cons t200022111 collectScores_nil)))) rfl

theorem t200020112 : readBoardAux P2 6 (⟨N2, N0, N0, N0, N2, N0, N1, N1, N2⟩ : Grid) P1 = some (ZP, none) :=
  rfl

theorem v200020110 : readBoardAux P2 7 (⟨N2, N0, N0, N0, N2, N0, N1, N1, N0⟩ : Grid) P2 = some (ZP, some M22) :=
  readBoardAux_step P2 6 (⟨N2, N0, N0, N0, N2, N0, N1, N1, N0⟩ : Grid) P2 [M01, M02, M10, M12, M22] rfl rfl
    (collectScores_cons v220020110 (collectScores_cons v202020110 (collectScores_cons v200220110 (collectScores_cons v200022110 (collectScores_cons t200020112 collectScores_nil))))) rfl

theorem v200022101 : readBoardAux P2 6 (⟨N2, N0, N0, N0, N2, N2, N1, N0, N1⟩ : Grid) P1 = some (ZM, some M21) :=
  readBoardAux_step P2 5 (⟨N2, N0, N0, N0, N2, N2, N1, N0, N1⟩ : Grid) P1 [M01, M02, M10, M21] rfl rfl
    (collectScores_cons v210022101 (collectScores_cons v201022101 (collectScores_cons v200122101 (collectScores_cons t200022111 collectScores_nil)))) rfl

theorem v200020121 : readBoardAux P2 6 (⟨N2, N0, N0, N0, N2, N0, N1, N2, N1⟩ : Grid) P1 = some (Z0, some M01) :=
  readBoardAux_step P2 5 (⟨N2, N0, N0, N0, N2, N0, N1, N2, N1⟩ : Grid) P1 [M01, M02, M10, M12] rfl rfl
    (collectScores_cons v210020121 (collectScores_cons v201020121 (collectScores_cons v200120121 (collectScores_cons v200021121 collectScores_nil)))) rfl

theorem v200020101 : readBoardAux P2 7 (⟨N2, N0, N0, N0, N2, N0, N1, N0, N1⟩ : Grid) P2 = some (Z0, some M21) :=
  readBoardAux_step P2 6 (⟨N2, N0, N0, N0, N2, N0, N1, N0, N1⟩ : Grid) P2 [M01, M02, M10, M12, M21] rfl rfl
    (collectScores_cons v220020101 (collectScores_cons v202020101 (collectScores_cons v200220101 (collectScores_cons v200022101 (collectScores_cons v200020121 collectScores_nil))))) rfl

theorem v200020100 : readBoardAux P2 8 (⟨N2, N0, N0, N0, N2, N0, N1, N0, N0⟩ : Grid) P1 = some (Z0, some M22) :=
  readBoardAux_step P2 7 (⟨N2, N0, N0, N0, N2, N0, N1, N0, N0⟩ : Grid) P1 [M01, M02, M10, M12, M21, M22] rfl rfl
    (collectScores_cons v210020100 (collectScores_cons v201020100 (collectScores_cons v200120100 (collectScores_cons v200021100 (collectScores_cons v200020110 (collectScores_cons v200020101 collectScores_nil)))))) rfl

theorem v200002112 : readBoardAux P2 6 (⟨N2, N0, N0, N0, N0, N2, N1, N1, N2⟩ : Grid) P1 = some (ZP, some M01) :=
  readBoardAux_step P2 5 (⟨N2, N0, N0, N0, N0, N2, N1, N1, N2⟩ : Grid) P1 [M01, M02, M10, M11] rfl rfl
    (collectScores_cons v210002112 (collectScores_cons v201002112 (collectScores_cons v200102112 (collectScores_cons v200012112 collectScores_nil)))) rfl

theorem v200002110 : readBoardAux P2 7 (⟨N2, N0, N0, N0, N0, N2, N1, N1, N0⟩ : Grid) P2 = some (ZP, some M22) :=
  readBoardAux_step P2 6 (⟨N2, N0, N0, N0, N0, N2, N1, N1, N0⟩ : Grid) P2 [M01, M02, M10, M11, M22] rfl rfl
    (collectScores_cons v220002110 (collectScores_cons v202002110 (collectScores_cons v200202110 (collectScores_cons v200022110 (collectScores_cons v200002112 collectScores_nil))))) rfl

theorem v200002121 : readBoardAux P2 6 (⟨N2, N0, N0, N0, N0, N2, N1, N2, N1⟩ : Grid) P1 = some (Z0, some M01) :=
  readBoardAux_step P2 5 (⟨N2, N0, N0, N0, N0, N2, N1, N2, N1⟩ : Grid) P1 [M01, M02, M10, M11] rfl rfl
    (collectScores_cons v210002121 (collectScores_cons v201002121 (collectScores_cons v200102121 (collectScores_cons v200012121 collectScores_nil)))) rfl

theorem v200002101 : readBoardAux P2 7 (⟨N2, N0, N0, N0, N0, N2, N1, N0, N1⟩ : Grid) P2 = some (Z0, some M21) :=
  readBoardAux_step P2 6 (⟨N2, N0, N0, N0, N0, N2, N1, N0, N1⟩ : Grid) P2 [M01, M02, M10, M11, M21] rfl rfl
    (collectScores_cons v220002101 (collectScores_cons v202002101 (collectScores_cons v200202101 (collectScores_cons v200022101 (collectScores_cons v200002121 collectScores_nil))))) rfl

theorem v200002100 : readBoardAux P2 8 (⟨N2, N0, N0, N0, N0, N2, N1, N0, N0⟩ : Grid) P1 = some (Z0, some M22) :=
  readBoardAux_step P2 7 (⟨N2, N0, N0, N0, N0, N2, N1, N0, N0⟩ : Grid) P1 [M01, M02, M10, M11, M21, M22] rfl rfl
    (collectScores_cons v210002100 (collectScores_cons v201002100 (collectScores_cons v200102100 (collectScores_cons v200012100 (collectScores_cons v200002110 (collectScores_cons v200002101 collectScores_nil)))))) rfl

theorem v200000121 : readBoardAux P2 7 (⟨N2, N0, N0, N0, N0, N0, N1, N2, N1⟩ : Grid) P2 = some (ZP, some M01) :=
  readBoardAux_step P2 6 (⟨N2, N0, N0, N0, N0, N0, N1, N2, N1⟩ : Grid) P2 [M01, M02, M10, M11, M12] rfl rfl
    (collectScores_cons v220000121 (collectScores_cons v202000121 (collectScores_cons v200200121 (collectScores_cons v200020121 (collectScores_cons v200002121 collectScores_nil))))) rfl

theorem v200000120 : readBoardAux P2 8 (⟨N2, N0, N0, N0, N0, N0, N1, N2, N0⟩ : Grid) P1 = some (Z0, some M01) :=
  readBoardAux_step P2 7 (⟨N2, N0, N0, N0, N0, N0, N1, N2, N0⟩ : Grid) P1 [M01, M02, M10, M11, M12, M22] rfl rfl
    (collectScores_cons v210000120 (collectScores_cons v201000120 (collectScores_cons v200100120 (collectScores_cons v200010120 (collectScores_cons v200001120 (collectScores_cons v200000121 collectScores_nil)))))) rfl

theorem v200000112 : readBoardAux P2 7 (⟨N2, N0, N0, N0, N0, N0, N1, N1, N2⟩ : Grid) P2 = some (ZP, some M01) :=
  readBoardAux_step P2 6 (⟨N2, N0, N0, N0, N0, N0, N1, N1, N2⟩ : Grid) P2 [M01, M02, M10, M11, M12] rfl rfl
    (collectScores_cons v220000112 (collectScores_cons v202000112 (collectScores_cons v200200112 (collectScores_cons t200020112 (collectScores_cons v200002112 collectScores_nil))))) rfl

theorem v200000102 : readBoardAux P2 8 (⟨N2, N0, N0, N0, N0, N0, N1, N0, N2⟩ : Grid) P1 = some (ZP, some M01) :=
  readBoardAux_step P2 7 (⟨N2, N0, N0, N0, N0, N0, N1, N0, N2⟩ : Grid) P1 [M01, M02, M10, M11, M12, M21] rfl rfl
    (collectScores_cons v210000102 (collectScores_cons v201000102 (collectScores_cons v200100102 (collectScores_cons v200010102 (collectScores_cons v200001102 (collectScores_cons v200000112 collectScores_nil)))))) rfl

theorem v200000100 : readBoardAux P2 9 (⟨N2, N0, N0, N0, N0, N0, N1, N0, N0⟩ : Grid) P2 = some (ZP, some M01) :=
  readBoardAux_step P2 8 (⟨N2, N0, N0, N0, N0, N0, N1, N0, N0⟩ : Grid) P2 [M01, M02, M10, M11, M12, M21, M22] rfl rfl
    (collectScores_cons v220000100 (collectScores_cons v202000100 (collectScores_cons v200200100 (collectScores_cons v200020100 (collectScores_cons v200002100 (collectScores_cons v200000120 (collectScores_cons v200000102 collectScores_nil))))))) rfl

theorem t222000011 : readBoardAux P2 6 (⟨N2, N2, N2, N0, N0, N0, N0, N1, N1⟩ : Grid) P1 = some (ZP, none) :=
  rfl

theorem v220200011 : readBoardAux P2 6 (⟨N2, N2, N0, N2, N0, N0, N0, N1, N1⟩ : Grid) P1 = some (ZM, some M20) :=
  readBoardAux_step P2 5 (⟨N2, N2, N0, N2, N0, N0, N0, N1, N1⟩ : Grid) P1 [M02, M11, M12, M20] rfl rfl
    (collectScores_cons v221200011 (collectScores_cons v220210011 (collectScores_cons v220201011 (collectScores_cons t220200111 collectScores_nil)))) rfl

theorem v220020011 : readBoardAux P2 6 (⟨N2, N2, N0, N0, N2, N0, N0, N1, N1⟩ : Grid) P1 = some (ZM, some M02) :=
  readBoardAux_step P2 5 (⟨N2, N2, N0, N0, N2, N0, N0, N1, N1⟩ : Grid) P1 [M02, M10, M12, M20] rfl rfl
    (collectScores_cons v221020011 (collectScores_cons v220120011 (collectScores_cons v220021011 (collectScores_cons t220020111 collectScores_nil)))) rfl

theorem v220002011 : readBoardAux P2 6 (⟨N2, N2, N0, N0, N0, N2, N0, N1, N1⟩ : Grid) P1 = some (ZM, some M20) :=
  readBoardAux_step P2 5 (⟨N2, N2, N0, N0, N0, N2, N0, N1, N1⟩ : Grid) P1 [M02, M10, M11, M20] rfl rfl
    (collectScores_cons v221002011 (collectScores_cons v220102011 (collectScores_cons v220012011 (collectScores_cons t220002111 collectScores_nil)))) rfl

theorem v220000211 : readBoardAux P2 6 (⟨N2, N2, N0, N0, N0, N0, N2, N1, N1⟩ : Grid) P1 = some (ZP, some M02) :=
  readBoardAux_step P2 5 (⟨N2, N2, N0, N0, N0, N0, N2, N1, N1⟩ : Grid) P1 [M02, M10, M11, M12] rfl rfl
    (collectScores_cons v221000211 (collectScores_cons v220100211 (collectScores_cons v220010211 (collectScores_cons v220001211 collectScores_nil)))) rfl

theorem v220000011 : readBoardAux P2 7 (⟨N2, N2, N0, N0, N0, N0, N0, N1, N1⟩ : Grid) P2 = some (ZP, some M02) :=
  readBoardAux_step P2 6 (⟨N2, N2, N0, N0, N0, N0, N0, N1, N1⟩ : Grid) P2 [M02, M10, M11, M12, M20] rfl rfl
    (collectScores_cons t222000011 (collectScores_cons v220200011 (collectScores_cons v220020011 (collectScores_cons v220002011 (collectScores_cons v220000211 collectScores_nil))))) rfl

theorem v220000010 : readBoardAux P2 8 (⟨N2, N2, N0, N0, N0, N0, N0, N1, N0⟩ : Grid) P1 = some (Z0, some M02) :=
  readBoardAux_step P2 7 (⟨N2, N2, N0, N0, N0, N0, N0, N1, N0⟩ : Grid) P1 [M02, M10, M11, M12, M20, M22] rfl rfl
    (collectScores_cons v221000010 (collectScores_cons v220100010 (collectScores_cons v220010010 (collectScores_cons v220001010 (collectScores_cons v220000110 (collectScores_cons v220000011 collectScores_nil)))))) rfl

theorem v202200011 : readBoardAux P2 6 (⟨N2, N0, N2, N2, N0, N0, N0, N1, N1⟩ : Grid) P1 = some (ZM, some M20) :=
  readBoardAux_step P2 5 (⟨N2, N0, N2, N2, N0, N0, N0, N1, N1⟩ : Grid) P1 [M01, M11, M12, M20] rfl rfl
    (collectScores_cons v212200011 (collectScores_cons v202210011 (collectScores_cons v202201011 (collectScores_cons t202200111 collectScores_nil)))) rfl

theorem v202020011 : readBoardAux P2 6 (⟨N2, N0, N2, N0, N2, N0, N0, N1, N1⟩ : Grid) P1 = some (ZM, some M20) :=
  readBoardAux_step P2 5 (⟨N2, N0, N2, N0, N2, N0, N0, N1, N1⟩ : Grid) P1 [M01, M10, M12, M20] rfl rfl
    (collectScores_cons v212020011 (collectScores_cons v202120011 (collectScores_cons v202021011 (collectScores_cons t202020111 collectScores_nil)))) rfl

theorem v202002011 : readBoardAux P2 6 (⟨N2, N0, N2, N0, N0, N2, N0, N1, N1⟩ : Grid) P1 = some (ZM, some M01) :=
  readBoardAux_step P2 5 (⟨N2, N0, N2, N0, N0, N2, N0, N1, N1⟩ : Grid) P1 [M01, M10, M11, M20] rfl rfl
    (collectScores_cons v212002011 (collectScores_cons v202102011 (collectScores_cons v202012011 (collectScores_cons t202002111 collectScores_nil)))) rfl

theorem v202000211 : readBoardAux P2 6 (⟨N2, N0, N2, N0, N0, N0, N2, N1, N1⟩ : Grid) P1 = some (ZP, some M01) :=
  readBoardAux_step P2 5 (⟨N2, N0, N2, N0, N0, N0, N2, N1, N1⟩ : Grid) P1 [M01, M10, M11, M12] rfl rfl
    (collectScores_cons v212000211 (collectScores_cons v202100211 (collectScores_cons v202010211 (collectScores_cons v202001211 collectScores_nil)))) rfl

theorem v202000011 : readBoardAux P2 7 (⟨N2, N0, N2, N0, N0, N0, N0, N1, N1⟩ : Grid) P2 = some (ZP, some M01) :=
  readBoardAux_step P2 6 (⟨N2, N0, N2, N0, N0, N0, N0, N1, N1⟩ : Grid) P2 [M01, M10, M11, M12, M20] rfl rfl
    (collectScores_cons t222000011 (collectScores_cons v202200011 (collectScores_cons v202020011 (collectScores_cons v202002011 (collectScores_cons v202000211 collectScores_nil))))) rfl

theorem v202000010 : readBoardAux P2 8 (⟨N2, N0, N2, N0, N0, N0, N0, N1, N0⟩ : Grid) P1 = some (ZP, some M01) :=
  readBoardAux_step P2 7 (⟨N2, N0, N2, N0, N0, N0, N0, N1, N0⟩ : Grid) P1 [M01, M10, M11, M12, M20, M22] rfl rfl
    (collectScores_cons v212000010 (collectScores_cons v202100010 (collectScores_cons v202010010 (collectScores_cons v202001010 (collectScores_cons v202000110 (collectScores_cons v202000011 collectScores_nil)))))) rfl

theorem v200220011 : readBoardAux P2 6 (⟨N2, N0, N0, N2, N2, N0, N0, N1, N1⟩ : Grid) P1 = some (ZM, some M20) :=
  readBoardAux_step P2 5 (⟨N2, N0, N0, N2, N2, N0, N0, N1, N1⟩ : Grid) P1 [M01, M02, M12, M20] rfl rfl
    (collectScores_cons v210220011 (collectScores_cons v201220011 (collectScores_cons v200221011 (collectScores_cons t200220111 collectScores_nil)))) rfl

theorem v200202011 : readBoardAux P2 6 (⟨N2, N0, N0, N2, N0, N2, N0, N1, N1⟩ : Grid) P1 = some (ZM, some M20) :=
  readBoardAux_step P2 5 (⟨N2, N0, N0, N2, N0, N2, N0, N1, N1⟩ : Grid) P1 [M01, M02, M11, M20] rfl rfl
    (collectScores_cons v210202011 (collectScores_cons v201202011 (collectScores_cons v200212011 (collectScores_cons t200202111 collectScores_nil)))) rfl

theorem t200200211 : readBoardAux P2 6 (⟨N2, N0, N0, N2, N0, N0, N2, N1, N1⟩ : Grid) P1 = some (ZP, none) :=
  rfl

theorem v200200011 : readBoardAux P2 7 (⟨N2, N0, N0, N2, N0, N0, N0, N1, N1⟩ : Grid) P2 = some (ZP, some M20) :=
  readBoardAux_step P2 6 (⟨N2, N0, N0, N2, N0, N0, N0, N1, N1⟩ : Grid) P2 [M01, M02, M11, M12, M20] rfl rfl
    (collectScores_cons v220200011 (collectScores_cons v202200011 (collectScores_cons v200220011 (collectScores_cons v200202011 (collectScores_cons t200200211 collectScores_nil))))) rfl

theorem v200200010 : readBoardAux P2 8 (⟨N2, N0, N0, N2, N0, N0, N0, N1, N0⟩ : Grid) P1 = some (ZM, some M20) :=
  readBoardAux_step P2 7 (⟨N2, N0, N0, N2, N0, N0, N0, N1, N0⟩ : Grid) P1 [M01, M02, M11, M12, M20, M22] rfl rfl
    (collectScores_cons v210200010 (collectScores_cons v201200010 (collectScores_cons v200210010 (collectScores_cons v200201010 (collectScores_cons v200200110 (collectScores_cons v200200011 collectScores_nil)))))) rfl

theorem v200022011 : readBoardAux P2 6 (⟨N2, N0, N0, N0, N2, N2, N0, N1, N1⟩ : Grid) P1 = some (ZM, some M20) :=
  readBoardAux_step P2 5 (⟨N2, N0, N0, N0, N2, N2, N0, N1, N1⟩ : Grid) P1 [M01, M02, M10, M20] rfl rfl
    (collectScores_cons v210022011 (collectScores_cons v201022011 (collectScores_cons v200122011 (collectScores_cons t200022111 collectScores_nil)))) rfl

theorem v200020211 : readBoardAux P2 6 (⟨N2, N0, N0, N0, N2, N0, N2, N1, N1⟩ : Grid) P1 = some (ZP, some M01) :=
  readBoardAux_step P2 5 (⟨N2, N0, N0, N0, N2, N0, N2, N1, N1⟩ : Grid) P1 [M01, M02, M10, M12] rfl rfl
    (collectScores_cons v210020211 (collectScores_cons v201020211 (collectScores_cons v200120211 (collectScores_cons v200021211 collectScores_nil)))) rfl

theorem v200020011 : readBoardAux P2 7 (⟨N2, N0, N0, N0, N2, N0, N0, N1, N1⟩ : Grid) P2 = some (ZP, some M20) :=
  readBoardAux_step P2 6 (⟨N2, N0, N0, N0, N2, N0, N0, N1, N1⟩ : Grid) P2 [M01, M02, M10, M12, M20] rfl rfl
    (collectScores_cons v220020011 (collectScores_cons v202020011 (collectScores_cons v200220011 (collectScores_cons v200022011 (collectScores_cons v200020211 collectScores_nil))))) rfl

theorem v200020010 : readBoardAux P2 8 (⟨N2, N0, N0, N0, N2, N0, N0, N1, N0⟩ : Grid) P1 = some (ZP, some M01) :=
  readBoardAux_step P2 7 (⟨N2, N0, N0, N0, N2, N0, N0, N1, N0⟩ : Grid) P1 [M01, M02, M10, M12, M20, M22] rfl rfl
    (collectScores_cons v210020010 (collectScores_cons v201020010 (collectScores_cons v200120010 (collectScores_cons v200021010 (collectScores_cons v200020110 (collectScores_cons v200020011 collectScores_nil)))))) rfl

theorem v200002211 : readBoardAux P2 6 (⟨N2, N0, N0, N0, N0, N2, N2, N1, N1⟩ : Grid) P1 = some (ZP, some M01) :=
  readBoardAux_step P2 5 (⟨N2, N0, N0, N0, N0, N2, N2, N1, N1⟩ : Grid) P1 [M01, M02, M10, M11] rfl rfl
    (collectScores_cons v210002211 (collectScores_cons v201002211 (collectScores_cons v200102211 (collectScores_cons v200012211 collectScores_nil)))) rfl

theorem v200002011 : readBoardAux P2 7 (⟨N2, N0, N0, N0, N0, N2, N0, N1, N1⟩ : Grid) P2 = some (ZP, some M20) :=
  readBoardAux_step P2 6 (⟨N2, N0, N0, N0, N0, N2, N0, N1, N1⟩ : Grid) P2 [M01, M02, M10, M11, M20] rfl rfl
    (collectScores_cons v220002011 (collectScores_cons v202002011 (collectScores_cons v200202011 (collectScores_cons v200022011 (collectScores_cons v200002211 collectScores_nil))))) rfl

theorem v200002010 : readBoardAux P2 8 (⟨N2, N0, N0, N0, N0, N2, N0, N1, N0⟩ : Grid) P1 = some (Z0, some M11) :=
  readBoardAux_step P2 7 (⟨N2, N0, N0, N0, N0, N2, N0, N1, N0⟩ : Grid) P1 [M01, M02, M10, M11, M20, M22] rfl rfl
    (collectScores_cons v210002010 (collectScores_cons v201002010 (collectScores_cons v200102010 (collectScores_cons v200012010 (collectScores_cons v200002110 (collectScores_cons v200002011 collectScores_nil)))))) rfl

theorem v200000211 : readBoardAux P2 7 (⟨N2, N0, N0, N0, N0, N0, N2, N1, N1⟩ : Grid) P2 = some (ZP, some M01) :=
  readBoardAux_step P2 6 (⟨N2, N0, N0, N0, N0, N0, N2, N1, N1⟩ : Grid) P2 [M01, M02, M10, M11, M12] rfl rfl
    (collectScores_cons v220000211 (collectScores_cons v202000211 (collectScores_cons t200200211 (collectScores_cons v200020211 (collectScores_cons v200002211 collectScores_nil))))) rfl

theorem v200000210 : readBoardAux P2 8 (⟨N2, N0, N0, N0, N0, N0, N2, N1, N0⟩ : Grid) P1 = some (ZP, some M01) :=
  readBoardAux_step P2 7 (⟨N2, N0, N0, N0, N0, N0, N2, N1, N0⟩ : Grid) P1 [M01, M02, M10, M11, M12, M22] rfl rfl
    (collectScores_cons v210000210 (collectScores_cons v201000210 (collectScores_cons v200100210 (collectScores_cons v200010210 (collectScores_cons v200001210 (collectScores_cons v200000211 collectScores_nil)))))) rfl

theorem v200000012 : readBoardAux P2 8 (⟨N2, N0, N0, N0, N0, N0, N0, N1, N2⟩ : Grid) P1 = some (Z0, some M11) :=
  readBoardAux_step P2 7 (⟨N2, N0, N0, N0, N0, N0, N0, N1, N2⟩ : Grid) P1 [M01, M02, M10, M11, M12, M20] rfl rfl
    (collectScores_cons v210000012 (collectScores_cons v201000012 (collectScores_cons v200100012 (collectScores_cons v200010012 (collectScores_cons v200001012 (collectScores_cons v200000112 collectScores_nil)))))) rfl

theorem v200000010 : readBoardAux P2 9 (⟨N2, N0, N0, N0, N0, N0, N0, N1, N0⟩ : Grid) P2 = some (ZP, some M02) :=
  readBoardAux_step P2 8 (⟨N2, N0, N0, N0, N0, N0, N0, N1, N0⟩ : Grid) P2 [M01, M02, M10, M11, M12, M20, M22] rfl rfl
    (collectScores_cons v220000010 (collectScores_cons v202000010 (collectScores_cons v200200010 (collectScores_cons v200020010 (collectScores_cons v200002010 (collectScores_cons v200000210 (collectScores_cons v200000012 collectScores_nil))))))) rfl

theorem v220000001 : readBoardAux P2 8 (⟨N2, N2, N0, N0, N0, N0, N0, N0, N1⟩ : Grid) P1 = some (ZM, some M02) :=
  readBoardAux_step P2 7 (⟨N2, N2, N0, N0, N0, N0, N0, N0, N1⟩ : Grid) P1 [M02, M10, M11, M12, M20, M21] rfl rfl
    (collectScores_cons v221000001 (collectScores_cons v220100001 (collectScores_cons v220010001 (collectScores_cons v220001001 (collectScores_cons v220000101 (collectScores_cons v220000011 collectScores_nil)))))) rfl

theorem v202000001 : readBoardAux P2 8 (⟨N2, N0, N2, N0, N0, N0, N0, N0, N1⟩ : Grid) P1 = some (ZP, some M01) :=
  readBoardAux_step P2 7 (⟨N2, N0, N2, N0, N0, N0, N0, N0, N1⟩ : Grid) P1 [M01, M10, M11, M12, M20, M21] rfl rfl
    (collectScores_cons v212000001 (collectScores_cons v202100001 (collectScores_cons v202010001 (collectScores_cons v202001001 (collectScores_cons v202000101 (collectScores_cons v202000011 collectScores_nil)))))) rfl

theorem v200200001 : readBoardAux P2 8 (⟨N2, N0, N0, N2, N0, N0, N0, N0, N1⟩ : Grid) P1 = some (ZM, some M20) :=
  readBoardAux_step P2 7 (⟨N2, N0, N0, N2, N0, N0, N0, N0, N1⟩ : Grid) P1 [M01, M02, M11, M12, M20, M21] rfl rfl
    (collectScores_cons v210200001 (collectScores_cons v201200001 (collectScores_cons v200210001 (collectScores_cons v200201001 (collectScores_cons v200200101 (collectScores_cons v200200011 collectScores_nil)))))) rfl

theorem v200020001 : readBoardAux P2 8 (⟨N2, N0, N0, N0, N2, N0, N0, N0, N1⟩ : Grid) P1 = some (Z0, some M02) :=
  readBoardAux_step P2 7 (⟨N2, N0, N0, N0, N2, N0, N0, N0, N1⟩ : Grid) P1 [M01, M02, M10, M12, M20, M21] rfl rfl
    (collectScores_cons v210020001 (collectScores_cons v201020001 (collectScores_cons v200120001 (collectScores_cons v200021001 (collectScores_cons v200020101 (collectScores_cons v200020011 collectScores_nil)))))) rfl

theorem v200002001 : readBoardAux P2 8 (⟨N2, N0, N0, N0, N0, N2, N0, N0, N1⟩ : Grid) P1 = some (Z0, some M10) :=
  readBoardAux_step P2 7 (⟨N2, N0, N0, N0, N0, N2, N0, N0, N1⟩ : Grid) P1 [M01, M02, M10, M11, M20, M21] rfl rfl
    (collectScores_cons v210002001 (collectScores_cons v201002001 (collectScores_cons v200102001 (collectScores_cons v200012001 (collectScores_cons v200002101 (collectScores_cons v200002011 collectScores_nil)))))) rfl

theorem v200000201 : readBoardAux P2 8 (⟨N2, N0, N0, N0, N0, N0, N2, N0, N1⟩ : Grid) P1 = some (ZP, some M01) :=
  readBoardAux_step P2 7 (⟨N2, N0, N0, N0, N0, N0, N2, N0, N1⟩ : Grid) P1 [M01, M02, M10, M11, M12, M21] rfl rfl
    (collectScores_cons v210000201 (collectScores_cons v201000201 (collectScores_cons v200100201 (collectScores_cons v200010201 (collectScores_cons v200001201 (collectScores_cons v200000211 collectScores_nil)))))) rfl

theorem v200000021 : readBoardAux P2 8 (⟨N2, N0, N0, N0, N0, N0, N0, N2, N1⟩ : Grid) P1 = some (Z0, some M01) :=
  readBoardAux_step P2 7 (⟨N2, N0, N0, N0, N0, N0, N0, N2, N1⟩ : Grid) P1 [M01, M02, M10, M11, M12, M20] rfl rfl
    (collectScores_cons v210000021 (collectScores_cons v201000021 (collectScores_cons v200100021 (collectScores_cons v200010021 (collectScores_cons v200001021 (collectScores_cons v200000121 collectScores_nil)))))) rfl

theorem v200000001 : readBoardAux P2 9 (⟨N2, N0, N0, N0, N0, N0, N0, N0, N1⟩ : Grid) P2 = some (ZP, some M02) :=
  readBoardAux_step P2 8 (⟨N2, N0, N0, N0, N0, N0, N0, N0, N1⟩ : Grid) P2 [M01, M02, M10, M11, M12, M20, M21] rfl rfl
    (collectScores_cons v220000001 (collectScores_cons v202000001 (collectScores_cons v200200001 (collectScores_cons v200020001 (collectScores_cons v200002001 (collectScores_cons v200000201 (collectScores_cons v200000021 collectScores_nil))))))) rfl

theorem v200000000 : readBoardAux P2 10 (⟨N2, N0, N0, N0, N0, N0, N0, N0, N0⟩ : Grid) P1 = some (Z0, some M11) :=
  readBoardAux_step P2 9 (⟨N2, N0, N0, N0, N0, N0, N0, N0, N0⟩ : Grid) P1 [M01, M02, M10, M11, M12, M20, M21, M22] rfl rfl
    (collectScores_cons v210000000 (collectScores_cons v201000000 (collectScores_cons v200100000 (collectScores_cons v200010000 (collectScores_cons v200001000 (collectScores_cons v200000100 (collectScores_cons v200000010 (collectScores_cons v200000001 collectScores_nil)))))))) rfl

theorem t122121200 : readBoardAux P2 4 (⟨N1, N2, N2, N1, N2, N1, N2, N0, N0⟩ : Grid) P1 = some (ZP, none) :=
  rfl

theorem t122121020 : readBoardAux P2 4 (⟨N1, N2, N2, N1, N2, N1, N0, N2, N0⟩ : Grid) P1 = some (ZP, none) :=
  rfl

theorem t122121102 : readBoardAux P2 3 (⟨N1, N2, N2, N1, N2, N1, N1, N0, N2⟩ : Grid) P2 = some (ZM, none) :=
  rfl

theorem t122121212 : readBoardAux P2 2 (⟨N1, N2, N2, N1, N2, N1, N2, N1, N2⟩ : Grid) P1 = some (ZP, none) :=
  rfl

theorem v122121012 : readBoardAux P2 3 (⟨N1, N2, N2, N1, N2, N1, N0, N1, N2⟩ : Grid) P2 = some (ZP, some M20) :=
  readBoardAux_step P2 2 (⟨N1, N2, N2, N1, N2, N1, N0, N1, N2⟩ : Grid) P2 [M20] rfl rfl
    (collectScores_cons t122121212 collectScores_nil) rfl

theorem v122121002 : readBoardAux P2 4 (⟨N1, N2, N2, N1, N2, N1, N0, N0, N2⟩ : Grid) P1 = some (ZM, some M20) :=
  readBoardAux_step P2 3 (⟨N1, N2, N2, N1, N2, N1, N0, N0, N2⟩ : Grid) P1 [M20, M21] rfl rfl
    (collectScores_cons t122121102 (collectScores_cons v122121012 collectScores_nil)) rfl

theorem v122121000 : readBoardAux P2 5 (⟨N1, N2, N2, N1, N2, N1, N0, N0, N0⟩ : Grid) P2 = some (ZP, some M20) :=
  readBoardAux_step P2 4 (⟨N1, N2, N2, N1, N2, N1, N0, N0, N0⟩ : Grid) P2 [M20, M21, M22] rfl rfl
    (collectScores_cons t122121200 (collectScores_cons t122121020 (collectScores_cons v122121002 collectScores_nil))) rfl

theorem t122120100 : readBoardAux P2 5 (⟨N1, N2, N2, N1, N2, N0, N1, N0, N0⟩ : Grid) P2 = some (ZM, none) :=
  rfl

theorem t122122110 : readBoardAux P2 3 (⟨N1, N2, N2, N1, N2, N2, N1, N1, N0⟩ : Grid) P2 = some (ZM, none) :=
  rfl

theorem t122122211 : readBoardAux P2 2 (⟨N1, N2, N2, N1, N2, N2, N2, N1, N1⟩ : Grid) P1 = some (ZP, none) :=
  rfl

theorem v122122011 : readBoardAux P2 3 (⟨N1, N2, N2, N1, N2, N2, N0, N1, N1⟩ : Grid) P2 = some (ZP, some M20) :=
  readBoardAux_step P2 2 (⟨N1, N2, N2, N1, N2, N2, N0, N1, N1⟩ : Grid) P2 [M20] rfl rfl
    (collectScores_cons t122122211 collectScores_nil) rfl

theorem v122122010 : readBoardAux P2 4 (⟨N1, N2, N2, N1, N2, N2, N0, N1, N0⟩ : Grid) P1 = some (ZM, some M20) :=
  readBoardAux_step P2 3 (⟨N1, N2, N2, N1, N2, N2, N0, N1, N0⟩ : Grid) P1 [M20, M22] rfl rfl
    (collectScores_cons t122122110 (collectScores_cons v122122011 collectScores_nil)) rfl

theorem t122120210 : readBoardAux P2 4 (⟨N1, N2, N2, N1, N2, N0, N2, N1, N0⟩ : Grid) P1 = some (ZP, none) :=
  rfl

theorem t122120112 : readBoardAux P2 3 (⟨N1, N2, N2, N1, N2, N0, N1, N1, N2⟩ : Grid) P2 = some (ZM, none) :=
  rfl

theorem v122120012 : readBoardAux P2 4 (⟨N1, N2, N2, N1, N2, N0, N0, N1, N2⟩ : Grid) P1 = some (ZM, some M20) :=
  readBoardAux_step P2 3 (⟨N1, N2, N2, N1, N2, N0, N0, N1, N2⟩ : Grid) P1 [M12, M20] rfl rfl
    (collectScores_cons v122121012 (collectScores_cons t122120112 collectScores_nil)) rfl

theorem v122120010 : readBoardAux P2 5 (⟨N1, N2, N2, N1, N2, N0, N0, N1, N0⟩ : Grid) P2 = some (ZP, some M20) :=
  readBoardAux_step P2 4 (⟨N1, N2, N2, N1, N2, N0, N0, N1, N0⟩ : Grid) P2 [M12, M20, M22] rfl rfl
    (collectScores_cons v122122010 (collectScores_cons t122120210 (collectScores_cons v122120012 collectScores_nil))) rfl

theorem t122122101 : readBoardAux P2 3 (⟨N1, N2, N2, N1, N2, N2, N1, N0, N1⟩ : Grid) P2 = some (ZM, none) :=
  rfl

theorem v122122001 : readBoardAux P2 4 (⟨N1, N2, N2, N1, N2, N2, N0, N0, N1⟩ : Grid) P1 = some (ZM, some M20) :=
  readBoardAux_step P2 3 (⟨N1, N2, N2, N1, N2, N2, N0, N0, N1⟩ : Grid) P1 [M20, M21] rfl rfl
    (collectScores_cons t122122101 (collectScores_cons v122122011 collectScores_nil)) rfl

theorem t122120201 : readBoardAux P2 4 (⟨N1, N2, N2, N1, N2, N0, N2, N0, N1⟩ : Grid) P1 = some (ZP, none) :=
  rfl

theorem t122120021 : readBoardAux P2 4 (⟨N1, N2, N2, N1, N2, N0, N0, N2, N1⟩ : Grid) P1 = some (ZP, none) :=
  rfl

theorem v122120001 : readBoardAux P2 5 (⟨N1, N2, N2, N1, N2, N0, N0, N0, N1⟩ : Grid) P2 = some (ZP, some M20) :=
  readBoardAux_step P2 4 (⟨N1, N2, N2, N1, N2, N0, N0, N0, N1⟩ : Grid) P2 [M12, M20, M21] rfl rfl
    (collectScores_cons v122122001 (collectScores_cons t122120201 (collectScores_cons t122120021 collectScores_nil))) rfl

theorem v122120000 : readBoardAux P2 6 (⟨N1, N2, N2, N1, N2, N0, N0, N0, N0⟩ : Grid) P1 = some (ZM, some M20) :=
  readBoardAux_step P2 5 (⟨N1, N2, N2, N1, N2, N0, N0, N0, N0⟩ : Grid) P1 [M12, M20, M21, M22] rfl rfl
    (collectScores_cons v122121000 (collectScores_cons t122120100 (collectScores_cons v122120010 (collectScores_cons v122120001 collectScores_nil)))) rfl

theorem t122112212 : readBoardAux P2 2 (⟨N1, N2, N2, N1, N1, N2, N2, N1, N2⟩ : Grid) P1 = some (ZP, none) :=
  rfl

theorem v122112210 : readBoardAux P2 3 (⟨N1, N2, N2, N1, N1, N2, N2, N1, N0⟩ : Grid) P2 = some (ZP, some M22) :=
  readBoardAux_step P2 2 (⟨N1, N2, N2, N1, N1, N2, N2, N1, N0⟩ : Grid) P2 [M22] rfl rfl
    (collectScores_cons t122112212 collectScores_nil) rfl

theorem t122112201 : readBoardAux P2 3 (⟨N1, N2, N2, N1, N1, N2, N2, N0, N1⟩ : Grid) P2 = some (ZM, none) :=
  rfl

theorem v122112200 : readBoardAux P2 4 (⟨N1, N2, N2, N1, N1, N2, N2, N0, N0⟩ : Grid) P1 = some (ZM, some M22) :=
  readBoardAux_step P2 3 (⟨N1, N2, N2, N1, N1, N2, N2, N0, N0⟩ : Grid) P1 [M21, M22] rfl rfl
    (collectScores_cons v122112210 (collectScores_cons t122112201 collectScores_nil)) rfl

theorem t122112120 : readBoardAux P2 3 (⟨N1, N2, N2, N1, N1, N2, N1, N2, N0⟩ : Grid) P2 = some (ZM, none) :=
  rfl

theorem t122112021 : readBoardAux P2 3 (⟨N1, N2, N2, N1, N1, N2, N0, N2, N1⟩ : Grid) P2 = some (ZM, none) :=
  rfl

theorem v122112020 : readBoardAux P2 4 (⟨N1, N2, N2, N1, N1, N2, N0, N2, N0⟩ : Grid) P1 = some (ZM, some M20) :=
  readBoardAux_step P2 3 (⟨N1, N2, N2, N1, N1, N2, N0, N2, N0⟩ : Grid) P1 [M20, M22] rfl rfl
    (collectScores_cons t122112120 (collectScores_cons t122112021 collectScores_nil)) rfl

theorem t122112002 : readBoardAux P2 4 (⟨N1, N2, N2, N1, N1, N2, N0, N0, N2⟩ : Grid) P1 = some (ZP, none) :=
  rfl

theorem v122112000 : readBoardAux P2 5 (⟨N1, N2, N2, N1, N1, N2, N0, N0, N0⟩ : Grid) P2 = some (ZP, some M22) :=
  readBoardAux_step P2 4 (⟨N1, N2, N2, N1, N1, N2, N0, N0, N0⟩ : Grid) P2 [M20, M21, M22] rfl rfl
    (collectScores_cons v122112200 (collectScores_cons v122112020 (collectScores_cons t122112002 collectScores_nil))) rfl

theorem t122102100 : readBoardAux P2 5 (⟨N1, N2, N2, N1, N0, N2, N1, N0, N0⟩ : Grid) P2 = some (ZM, none) :=
  rfl

theorem v122102211 : readBoardAux P2 3 (⟨N1, N2, N2, N1, N0, N2, N2, N1, N1⟩ : Grid) P2 = some (ZP, some M11) :=
  readBoardAux_step P2 2 (⟨N1, N2, N2, N1, N0, N2, N2, N1, N1⟩ : Grid) P2 [M11] rfl rfl
    (collectScores_cons t122122211 collectScores_nil) rfl

theorem v122102210 : readBoardAux P2 4 (⟨N1, N2, N2, N1, N0, N2, N2, N1, N0⟩ : Grid) P1 = some (ZP, some M11) :=
  readBoardAux_step P2 3 (⟨N1, N2, N2, N1, N0, N2, N2, N1, N0⟩ : Grid) P1 [M11, M22] rfl rfl
    (collectScores_cons v122112210 (collectScores_cons v122102211 collectScores_nil)) rfl

theorem t122102012 : readBoardAux P2 4 (⟨N1, N2, N2, N1, N0, N2, N0, N1, N2⟩ : Grid) P1 = some (ZP, none) :=
  rfl

theorem v122102010 : readBoardAux P2 5 (⟨N1, N2, N2, N1, N0, N2, N0, N1, N0⟩ : Grid) P2 = some (ZP, some M20) :=
  readBoardAux_step P2 4 (⟨N1, N2, N2, N1, N0, N2, N0, N1, N0⟩ : Grid) P2 [M11, M20, M22] rfl rfl
    (collectScores_cons v122122010 (collectScores_cons v122102210 (collectScores_cons t122102012 collectScores_nil))) rfl

theorem v122102201 : readBoardAux P2 4 (⟨N1, N2, N2, N1, N0, N2, N2, N0, N1⟩ : Grid) P1 = some (ZM, some M11) :=
  readBoardAux_step P2 3 (⟨N1, N2, N2, N1, N0, N2, N2, N0, N1⟩ : Grid) P1 [M11, M21] rfl rfl
    (collectScores_cons t122112201 (collectScores_cons v122102211 collectScores_nil)) rfl

theorem t122102121 : readBoardAux P2 3 (⟨N1, N2, N2, N1, N0, N2, N1, N2, N1⟩ : Grid) P2 = some (ZM, none) :=
  rfl

theorem v122102021 : readBoardAux P2 4 (⟨N1, N2, N2, N1, N0, N2, N0, N2, N1⟩ : Grid) P1 = some (ZM, some M11) :=
  readBoardAux_step P2 3 (⟨N1, N2, N2, N1, N0, N2, N0, N2, N1⟩ : Grid) P1 [M11, M20] rfl rfl
    (collectScores_cons t122112021 (collectScores_cons t122102121 collectScores_nil)) rfl

theorem v122102001 : readBoardAux P2 5 (⟨N1, N2, N2, N1, N0, N2, N0, N0, N1⟩ : Grid) P2 = some (ZM, some M11) :=
  readBoardAux_step P2 4 (⟨N1, N2, N2, N1, N0, N2, N0, N0, N1⟩ : Grid) P2 [M11, M20, M21] rfl rfl
    (collectScores_cons v122122001 (collectScores_cons v122102201 (collectScores_cons v122102021 collectScores_nil))) rfl

theorem v122102000 : readBoardAux P2 6 (⟨N1, N2, N2, N1, N0, N2, N0, N0, N0⟩ : Grid) P1 = some (ZM, some M20) :=
  readBoardAux_step P2 5 (⟨N1, N2, N2, N1, N0, N2, N0, N0, N0⟩ : Grid) P1 [M11, M20, M21, M22] rfl rfl
    (collectScores_cons v122112000 (collectScores_cons t122102100 (collectScores_cons v122102010 (collectScores_cons v122102001 collectScores_nil)))) rfl

theorem t122111220 : readBoardAux P2 3 (⟨N1, N2, N2, N1, N1, N1, N2, N2, N0⟩ : Grid) P2 = some (ZM, none) :=
  rfl

theorem t122110221 : readBoardAux P2 3 (⟨N1, N2, N2, N1, N1, N0, N2, N2, N1⟩ : Grid) P2 = some (ZM, none) :=
  rfl

theorem v122110220 : readBoardAux P2 4 (⟨N1, N2, N2, N1, N1, N0, N2, N2, N0⟩ : Grid) P1 = some (ZM, some M12) :=
  readBoardAux_step P2 3 (⟨N1, N2, N2, N1, N1, N0, N2, N2, N0⟩ : Grid) P1 [M12, M22] rfl rfl
    (collectScores_cons t122111220 (collectScores_cons t122110221 collectScores_nil)) rfl

theorem t122111202 : readBoardAux P2 3 (⟨N1, N2, N2, N1, N1, N1, N2, N0, N2⟩ : Grid) P2 = some (ZM, none) :=
  rfl

theorem v122110212 : readBoardAux P2 3 (⟨N1, N2, N2, N1, N1, N0, N2, N1, N2⟩ : Grid) P2 = some (ZP, some M12) :=
  readBoardAux_step P2 2 (⟨N1, N2, N2, N1, N1, N0, N2, N1, N2⟩ : Grid) P2 [M12] rfl rfl
    (collectScores_cons t122112212 collectScores_nil) rfl

theorem v122110202 : readBoardAux P2 4 (⟨N1, N2, N2, N1, N1, N0, N2, N0, N2⟩ : Grid) P1 = some (ZM, some M12) :=
  readBoardAux_step P2 3 (⟨N1, N2, N2, N1, N1, N0, N2, N0, N2⟩ : Grid) P1 [M12, M21] rfl rfl
    (collectScores_cons t122111202 (collectScores_cons v122110212 collectScores_nil)) rfl

theorem v122110200 : readBoardAux P2 5 (⟨N1, N2, N2, N1, N1, N0, N2, N0, N0⟩ : Grid) P2 = some (ZM, some M12) :=
  readBoardAux_step P2 4 (⟨N1, N2, N2, N1, N1, N0, N2, N0, N0⟩ : Grid) P2 [M12, M21, M22] rfl rfl
    (collectScores_cons v122112200 (collectScores_cons v122110220 (collectScores_cons v122110202 collectScores_nil))) rfl

theorem t122121221 : readBoardAux P2 2 (⟨N1, N2, N2, N1, N2, N1, N2, N2, N1⟩ : Grid) P1 = some (ZP, none) :=
  rfl

theorem v122101221 : readBoardAux P2 3 (⟨N1, N2, N2, N1, N0, N1, N2, N2, N1⟩ : Grid) P2 = some (ZP, some M11) :=
  readBoardAux_step P2 2 (⟨N1, N2, N2, N1, N0, N1, N2, N2, N1⟩ : Grid) P2 [M11] rfl rfl
    (collectScores_cons t122121221 collectScores_nil) rfl

theorem v122101220 : readBoardAux P2 4 (⟨N1, N2, N2, N1, N0, N1, N2, N2, N0⟩ : Grid) P1 = some (ZM, some M11) :=
  readBoardAux_step P2 3 (⟨N1, N2, N2, N1, N0, N1, N2, N2, N0⟩ : Grid) P1 [M11, M22] rfl rfl
    (collectScores_cons t122111220 (collectScores_cons v122101221 collectScores_nil)) rfl

theorem v122101212 : readBoardAux P2 3 (⟨N1, N2, N2, N1, N0, N1, N2, N1, N2⟩ : Grid) P2 = some (ZP, some M11) :=
  readBoardAux_step P2 2 (⟨N1, N2, N2, N1, N0, N1, N2, N1, N2⟩ : Grid) P2 [M11] rfl rfl
    (collectScores_cons t122121212 collectScores_nil) rfl

theorem v122101202 : readBoardAux P2 4 (⟨N1, N2, N2, N1, N0, N1, N2, N0, N2⟩ : Grid) P1 = some (ZM, some M11) :=
  readBoardAux_step P2 3 (⟨N1, N2, N2, N1, N0, N1, N2, N0, N2⟩ : Grid) P1 [M11, M21] rfl rfl
    (collectScores_cons t122111202 (collectScores_cons v122101212 collectScores_nil)) rfl

theorem v122101200 : readBoardAux P2 5 (⟨N1, N2, N2, N1, N0, N1, N2, N0, N0⟩ : Grid) P2 = some (ZP, some M11) :=
  readBoardAux_step P2 4 (⟨N1, N2, N2, N1, N0, N1, N2, N0, N0⟩ : Grid) P2 [M11, M21, M22] rfl rfl
    (collectScores_cons t122121200 (collectScores_cons v122101220 (collectScores_cons v122101202 collectScores_nil))) rfl

theorem v122100212 : readBoardAux P2 4 (⟨N1, N2, N2, N1, N0, N0, N2, N1, N2⟩ : Grid) P1 = some (ZP, some M11) :=
  readBoardAux_step P2 3 (⟨N1, N2, N2, N1, N0, N0, N2, N1, N2⟩ : Grid) P1 [M11, M12] rfl rfl
    (collectScores_cons v122110212 (collectScores_cons v122101212 collectScores_nil)) rfl

theorem v122100210 : readBoardAux P2 5 (⟨N1, N2, N2, N1, N0, N0, N2, N1, N0⟩ : Grid) P2 = some (ZP, some M11) :=
  readBoardAux_step P2 4 (⟨N1, N2, N2, N1, N0, N0, N2, N1, N0⟩ : Grid) P2 [M11, M12, M22] rfl rfl
    (collectScores_cons t122120210 (collectScores_cons v122102210 (collectScores_cons v122100212 collectScores_nil))) rfl

theorem v122100221 : readBoardAux P2 4 (⟨N1, N2, N2, N1, N0, N0, N2, N2, N1⟩ : Grid) P1 = some (ZM, some M11) :=
  readBoardAux_step P2 3 (⟨N1, N2, N2, N1, N0, N0, N2, N2, N1⟩ : Grid) P1 [M11, M12] rfl rfl
    (collectScores_cons t122110221 (collectScores_cons v122101221 collectScores_nil)) rfl

theorem v122100201 : readBoardAux P2 5 (⟨N1, N2, N2, N1, N0, N0, N2, N0, N1⟩ : Grid) P2 = some (ZP, some M11) :=
  readBoardAux_step P2 4 (⟨N1, N2, N2, N1, N0, N0, N2, N0, N1⟩ : Grid) P2 [M11, M12, M21] rfl rfl
    (collectScores_cons t122120201 (collectScores_cons v122102201 (collectScores_cons v122100221 collectScores_nil))) rfl

theorem v122100200 : readBoardAux P2 6 (⟨N1, N2, N2, N1, N0, N0, N2, N0, N0⟩ : Grid) P1 = some (ZM, some M11) :=
  readBoardAux_step P2 5 (⟨N1, N2, N2, N1, N0, N0, N2, N0, N0⟩ : Grid) P1 [M11, M12, M21, M22] rfl rfl
    (collectScores_cons v122110200 (collectScores_cons v122101200 (collectScores_cons v122100210 (collectScores_cons v122100201 collectScores_nil)))) rfl

theorem t122111022 : readBoardAux P2 3 (⟨N1, N2, N2, N1, N1, N1, N0, N2, N2⟩ : Grid) P2 = some (ZM, none) :=
  rfl

theorem t122110122 : readBoardAux P2 3 (⟨N1, N2, N2, N1, N1, N0, N1, N2, N2⟩ : Grid) P2 = some (ZM, none) :=
  rfl

theorem v122110022 : readBoardAux P2 4 (⟨N1, N2, N2, N1, N1, N0, N0, N2, N2⟩ : Grid) P1 = some (ZM, some M12) :=
  readBoardAux_step P2 3 (⟨N1, N2, N2, N1, N1, N0, N0, N2, N2⟩ : Grid) P1 [M12, M20] rfl rfl
    (collectScores_cons t122111022 (collectScores_cons t122110122 collectScores_nil)) rfl

theorem v122110020 : readBoardAux P2 5 (⟨N1, N2, N2, N1, N1, N0, N0, N2, N0⟩ : Grid) P2 = some (ZM, some M12) :=
  readBoardAux_step P2 4 (⟨N1, N2, N2, N1, N1, N0, N0, N2, N0⟩ : Grid) P2 [M12, M20, M22] rfl rfl
    (collectScores_cons v122112020 (collectScores_cons v122110220 (collectScores_cons v122110022 collectScores_nil))) rfl

theorem t122101122 : readBoardAux P2 3 (⟨N1, N2, N2, N1, N0, N1, N1, N2, N2⟩ : Grid) P2 = some (ZM, none) :=
  rfl

theorem v122101022 : readBoardAux P2 4 (⟨N1, N2, N2, N1, N0, N1, N0, N2, N2⟩ : Grid) P1 = some (ZM, some M11) :=
  readBoardAux_step P2 3 (⟨N1, N2, N2, N1, N0, N1, N0, N2, N2⟩ : Grid) P1 [M11, M20] rfl rfl
    (collectScores_cons t122111022 (collectScores_cons t122101122 collectScores_nil)) rfl

theorem v122101020 : readBoardAux P2 5 (⟨N1, N2, N2, N1, N0, N1, N0, N2, N0⟩ : Grid) P2 = some (ZP, some M11) :=
  readBoardAux_step P2 4 (⟨N1, N2, N2, N1, N0, N1, N0, N2, N0⟩ : Grid) P2 [M11, M20, M22] rfl rfl
    (collectScores_cons t122121020 (collectScores_cons v122101220 (collectScores_cons v122101022 collectScores_nil))) rfl

theorem t122100120 : readBoardAux P2 5 (⟨N1, N2, N2, N1, N0, N0, N1, N2, N0⟩ : Grid) P2 = some (ZM, none) :=
  rfl

theorem v122100021 : readBoardAux P2 5 (⟨N1, N2, N2, N1, N0, N0, N0, N2, N1⟩ : Grid) P2 = some (ZP, some M11) :=
  readBoardAux_step P2 4 (⟨N1, N2, N2, N1, N0, N0, N0, N2, N1⟩ : Grid) P2 [M11, M12, M20] rfl rfl
    (collectScores_cons t122120021 (collectScores_cons v122102021 (collectScores_cons v122100221 collectScores_nil))) rfl

theorem v122100020 : readBoardAux P2 6 (⟨N1, N2, N2, N1, N0, N0, N0, N2, N0⟩ : Grid) P1 = some (ZM, some M11) :=
  readBoardAux_step P2 5 (⟨N1, N2, N2, N1, N0, N0, N0, N2, N0⟩ : Grid) P1 [M11, M12, M20, M22] rfl rfl
    (collectScores_cons v122110020 (collectScores_cons v122101020 (collectScores_cons t122100120 (collectScores_cons v122100021 collectScores_nil)))) rfl

theorem v122110002 : readBoardAux P2 5 (⟨N1, N2, N2, N1, N1, N0, N0, N0, N2⟩ : Grid) P2 = some (ZP, some M12) :=
  readBoardAux_step P2 4 (⟨N1, N2, N2, N1, N1, N0, N0, N0, N2⟩ : Grid) P2 [M12, M20, M21] rfl rfl
    (collectScores_cons t122112002 (collectScores_cons v122110202 (collectScores_cons v122110022 collectScores_nil))) rfl

theorem v122101002 : readBoardAux P2 5 (⟨N1, N2, N2, N1, N0, N1, N0, N0, N2⟩ : Grid) P2 = some (ZM, some M11) :=
  readBoardAux_step P2 4 (⟨N1, N2, N2, N1, N0, N1, N0, N0, N2⟩ : Grid) P2 [M11, M20, M21] rfl rfl
    (collectScores_cons v122121002 (collectScores_cons v122101202 (collectScores_cons v122101022 collectScores_nil))) rfl

theorem t122100102 : readBoardAux P2 5 (⟨N1, N2, N2, N1, N0, N0, N1, N0, N2⟩ : Grid) P2 = some (ZM, none) :=
  rfl

theorem v122100012 : readBoardAux P2 5 (⟨N1, N2, N2, N1, N0, N0, N0, N1, N2⟩ : Grid) P2 = some (ZP, some M12) :=
  readBoardAux_step P2 4 (⟨N1, N2, N2, N1, N0, N0, N0, N1, N2⟩ : Grid) P2 [M11, M12, M20] rfl rfl
    (collectScores_cons v122120012 (collectScores_cons t122102012 (collectScores_cons v122100212 collectScores_nil))) rfl

theorem v122100002 : readBoardAux P2 6 (⟨N1, N2, N2, N1, N0, N0, N0, N0, N2⟩ : Grid) P1 = some (ZM, some M12) :=
  readBoardAux_step P2 5 (⟨N1, N2, N2, N1, N0, N0, N0, N0, N2⟩ : Grid) P1 [M11, M12, M20, M21] rfl rfl
    (collectScores_cons v122110002 (collectScores_cons v122101002 (collectScores_cons t122100102 (collectScores_cons v122100012 collectScores_nil)))) rfl

theorem v122100000 : readBoardAux P2 7 (⟨N1, N2, N2, N1, N0, N0, N0, N0, N0⟩ : Grid) P2 = some (ZM, some M11) :=
  readBoardAux_step P2 6 (⟨N1, N2, N2, N1, N0, N0, N0, N0, N0⟩ : Grid) P2 [M11, M12, M20, M21, M22] rfl rfl
    (collectScores_cons v122120000 (collectScores_cons v122102000 (collectScores_cons v122100200 (collectScores_cons v122100020 (collectScores_cons v122100002 collectScores_nil))))) rfl

theorem t122211212 : readBoardAux P2 2 (⟨N1, N2, N2, N2, N1, N1, N2, N1, N2⟩ : Grid) P1 = some (Z0, none) :=
  rfl

theorem v122211210 : readBoardAux P2 3 (⟨N1, N2, N2, N2, N1, N1, N2, N1, N0⟩ : Grid) P2 = some (Z0, some M22) :=
  readBoardAux_step P2 2 (⟨N1, N2, N2, N2, N1, N1, N2, N1, N0⟩ : Grid) P2 [M22] rfl rfl
    (collectScores_cons t122211212 collectScores_nil) rfl

theorem t122211201 : readBoardAux P2 3 (⟨N1, N2, N2, N2, N1, N1, N2, N0, N1⟩ : Grid) P2 = some (ZM, none) :=
  rfl

theorem v122211200 : readBoardAux P2 4 (⟨N1, N2, N2, N2, N1, N1, N2, N0, N0⟩ : Grid) P1 = some (ZM, some M22) :=
  readBoardAux_step P2 3 (⟨N1, N2, N2, N2, N1, N1, N2, N0, N0⟩ : Grid) P1 [M21, M22] rfl rfl
    (collectScores_cons v122211210 (collectScores_cons t122211201 collectScores_nil)) rfl

theorem t122211122 : readBoardAux P2 2 (⟨N1, N2, N2, N2, N1, N1, N1, N2, N2⟩ : Grid) P1 = some (Z0, none) :=
  rfl

theorem v122211120 : readBoardAux P2 3 (⟨N1, N2, N2, N2, N1, N1, N1, N2, N0⟩ : Grid) P2 = some (Z0, some M22) :=
  readBoardAux_step P2 2 (⟨N1, N2, N2, N2, N1, N1, N1, N2, N0⟩ : Grid) P2 [M22] rfl rfl
    (collectScores_cons t122211122 collectScores_nil) rfl

theorem t122211021 : readBoardAux P2 3 (⟨N1, N2, N2, N2, N1, N1, N0, N2, N1⟩ : Grid) P2 = some (ZM, none) :=
  rfl

theorem v122211020 : readBoardAux P2 4 (⟨N1, N2, N2, N2, N1, N1, N0, N2, N0⟩ : Grid) P1 = some (ZM, some M22) :=
  readBoardAux_step P2 3 (⟨N1, N2, N2, N2, N1, N1, N0, N2, N0⟩ : Grid) P1 [M20, M22] rfl rfl
    (collectScores_cons v122211120 (collectScores_cons t122211021 collectScores_nil)) rfl

theorem v122211102 : readBoardAux P2 3 (⟨N1, N2, N2, N2, N1, N1, N1, N0, N2⟩ : Grid) P2 = some (Z0, some M21) :=
  readBoardAux_step P2 2 (⟨N1, N2, N2, N2, N1, N1, N1, N0, N2⟩ : Grid) P2 [M21] rfl rfl
    (collectScores_cons t122211122 collectScores_nil) rfl

theorem v122211012 : readBoardAux P2 3 (⟨N1, N2, N2, N2, N1, N1, N0, N1, N2⟩ : Grid) P2 = some (Z0, some M20) :=
  readBoardAux_step P2 2 (⟨N1, N2, N2, N2, N1, N1, N0, N1, N2⟩ : Grid) P2 [M20] rfl rfl
    (collectScores_cons t122211212 collectScores_nil) rfl

theorem v122211002 : readBoardAux P2 4 (⟨N1, N2, N2, N2, N1, N1, N0, N0, N2⟩ : Grid) P1 = some (Z0, some M20) :=
  readBoardAux_step P2 3 (⟨N1, N2, N2, N2, N1, N1, N0, N0, N2⟩ : Grid) P1 [M20, M21] rfl rfl
    (collectScores_cons v122211102 (collectScores_cons v122211012 collectScores_nil)) rfl

theorem v122211000 : readBoardAux P2 5 (⟨N1, N2, N2, N2, N1, N1, N0, N0, N0⟩ : Grid) P2 = some (Z0, some M22) :=
  readBoardAux_step P2 4 (⟨N1, N2, N2, N2, N1, N1, N0, N0, N0⟩ : Grid) P2 [M20, M21, M22] rfl rfl
    (collectScores_cons v122211200 (collectScores_cons v122211020 (collectScores_cons v122211002 collectScores_nil))) rfl

theorem t122212112 : readBoardAux P2 2 (⟨N1, N2, N2, N2, N1, N2, N1, N1, N2⟩ : Grid) P1 = some (ZP, none) :=
  rfl

theorem v122212110 : readBoardAux P2 3 (⟨N1, N2, N2, N2, N1, N2, N1, N1, N0⟩ : Grid) P2 = some (ZP, some M22) :=
  readBoardAux_step P2 2 (⟨N1, N2, N2, N2, N1, N2, N1, N1, N0⟩ : Grid) P2 [M22] rfl rfl
    (collectScores_cons t122212112 collectScores_nil) rfl

theorem t122212101 : readBoardAux P2 3 (⟨N1, N2, N2, N2, N1, N2, N1, N0, N1⟩ : Grid) P2 = some (ZM, none) :=
  rfl

theorem v122212100 : readBoardAux P2 4 (⟨N1, N2, N2, N2, N1, N2, N1, N0, N0⟩ : Grid) P1 = some (ZM, some M22) :=
  readBoardAux_step P2 3 (⟨N1, N2, N2, N2, N1, N2, N1, N0, N0⟩ : Grid) P1 [M21, M22] rfl rfl
    (collectScores_cons v122212110 (collectScores_cons t122212101 collectScores_nil)) rfl

theorem t122210121 : readBoardAux P2 3 (⟨N1, N2, N2, N2, N1, N0, N1, N2, N1⟩ : Grid) P2 = some (ZM, none) :=
  rfl

theorem v122210120 : readBoardAux P2 4 (⟨N1, N2, N2, N2, N1, N0, N1, N2, N0⟩ : Grid) P1 = some (ZM, some M22) :=
  readBoardAux_step P2 3 (⟨N1, N2, N2, N2, N1, N0, N1, N2, N0⟩ : Grid) P1 [M12, M22] rfl rfl
    (collectScores_cons v122211120 (collectScores_cons t122210121 collectScores_nil)) rfl

theorem v122210112 : readBoardAux P2 3 (⟨N1, N2, N2, N2, N1, N0, N1, N1, N2⟩ : Grid) P2 = some (ZP, some M12) :=
  readBoardAux_step P2 2 (⟨N1, N2, N2, N2, N1, N0, N1, N1, N2⟩ : Grid) P2 [M12] rfl rfl
    (collectScores_cons t122212112 collectScores_nil) rfl

theorem v122210102 : readBoardAux P2 4 (⟨N1, N2, N2, N2, N1, N0, N1, N0, N2⟩ : Grid) P1 = some (Z0, some M12) :=
  readBoardAux_step P2 3 (⟨N1, N2, N2, N2, N1, N0, N1, N0, N2⟩ : Grid) P1 [M12, M21] rfl rfl
    (collectScores_cons v122211102 (collectScores_cons v122210112 collectScores_nil)) rfl

theorem v122210100 : readBoardAux P2 5 (⟨N1, N2, N2, N2, N1, N0, N1, N0, N0⟩ : Grid) P2 = some (Z0, some M22) :=
  readBoardAux_step P2 4 (⟨N1, N2, N2, N2, N1, N0, N1, N0, N0⟩ : Grid) P2 [M12, M21, M22] rfl rfl
    (collectScores_cons v122212100 (collectScores_cons v122210120 (collectScores_cons v122210102 collectScores_nil))) rfl

theorem t122212011 : readBoardAux P2 3 (⟨N1, N2, N2, N2, N1, N2, N0, N1, N1⟩ : Grid) P2 = some (ZM, none) :=
  rfl

theorem v122212010 : readBoardAux P2 4 (⟨N1, N2, N2, N2, N1, N2, N0, N1, N0⟩ : Grid) P1 = some (ZM, some M22) :=
  readBoardAux_step P2 3 (⟨N1, N2, N2, N2, N1, N2, N0, N1, N0⟩ : Grid) P1 [M20, M22] rfl rfl
    (collectScores_cons v122212110 (collectScores_cons t122212011 collectScores_nil)) rfl

theorem t122210211 : readBoardAux P2 3 (⟨N1, N2, N2, N2, N1, N0, N2, N1, N1⟩ : Grid) P2 = some (ZM, none) :=
  rfl

theorem v122210210 : readBoardAux P2 4 (⟨N1, N2, N2, N2, N1, N0, N2, N1, N0⟩ : Grid) P1 = some (ZM, some M22) :=
  readBoardAux_step P2 3 (⟨N1, N2, N2, N2, N1, N0, N2, N1, N0⟩ : Grid) P1 [M12, M22] rfl rfl
    (collectScores_cons v122211210 (collectScores_cons t122210211 collectScores_nil)) rfl

theorem v122210012 : readBoardAux P2 4 (⟨N1, N2, N2, N2, N1, N0, N0, N1, N2⟩ : Grid) P1 = some (Z0, some M12) :=
  readBoardAux_step P2 3 (⟨N1, N2, N2, N2, N1, N0, N0, N1, N2⟩ : Grid) P1 [M12, M20] rfl rfl
    (collectScores_cons v122211012 (collectScores_cons v122210112 collectScores_nil)) rfl

theorem v122210010 : readBoardAux P2 5 (⟨N1, N2, N2, N2, N1, N0, N0, N1, N0⟩ : Grid) P2 = some (Z0, some M22) :=
  readBoardAux_step P2 4 (⟨N1, N2, N2, N2, N1, N0, N0, N1, N0⟩ : Grid) P2 [M12, M20, M22] rfl rfl
    (collectScores_cons v122212010 (collectScores_cons v122210210 (collectScores_cons v122210012 collectScores_nil))) rfl

theorem t122210001 : readBoardAux P2 5 (⟨N1, N2, N2, N2, N1, N0, N0, N0, N1⟩ : Grid) P2 = some (ZM, none) :=
  rfl

theorem v122210000 : readBoardAux P2 6 (⟨N1, N2, N2, N2, N1, N0, N0, N0, N0⟩ : Grid) P1 = some (ZM, some M22) :=
  readBoardAux_step P2 5 (⟨N1, N2, N2, N2, N1, N0, N0, N0, N0⟩ : Grid) P1 [M12, M20, M21, M22] rfl rfl
    (collectScores_cons v122211000 (collectScores_cons v122210100 (collectScores_cons v122210010 (collectScores_cons t122210001 collectScores_nil)))) rfl

theorem t122012121 : readBoardAux P2 3 (⟨N1, N2, N2, N0, N1, N2, N1, N2, N1⟩ : Grid) P2 = some (ZM, none) :=
  rfl

theorem v122012120 : readBoardAux P2 4 (⟨N1, N2, N2, N0, N1, N2, N1, N2, N0⟩ : Grid) P1 = some (ZM, some M10) :=
  readBoardAux_step P2 3 (⟨N1, N2, N2, N0, N1, N2, N1, N2, N0⟩ : Grid) P1 [M10, M22] rfl rfl
    (collectScores_cons t122112120 (collectScores_cons t122012121 collectScores_nil)) rfl

theorem t122012102 : readBoardAux P2 4 (⟨N1, N2, N2, N0, N1, N2, N1, N0, N2⟩ : Grid) P1 = some (ZP, none) :=
  rfl

theorem v122012100 : readBoardAux P2 5 (⟨N1, N2, N2, N0, N1, N2, N1, N0, N0⟩ : Grid) P2 = some (ZP, some M22) :=
  readBoardAux_step P2 4 (⟨N1, N2, N2, N0, N1, N2, N1, N0, N0⟩ : Grid) P2 [M10, M21, M22] rfl rfl
    (collectScores_cons v122212100 (collectScores_cons v122012120 (collectScores_cons t122012102 collectScores_nil))) rfl

theorem t122012211 : readBoardAux P2 3 (⟨N1, N2, N2, N0, N1, N2, N2, N1, N1⟩ : Grid) P2 = some (ZM, none) :=
  rfl

theorem v122012210 : readBoardAux P2 4 (⟨N1, N2, N2, N0, N1, N2, N2, N1, N0⟩ : Grid) P1 = some (ZM, some M22) :=
  readBoardAux_step P2 3 (⟨N1, N2, N2, N0, N1, N2, N2, N1, N0⟩ : Grid) P1 [M10, M22] rfl rfl
    (collectScores_cons v122112210 (collectScores_cons t122012211 collectScores_nil)) rfl

theorem t122012012 : readBoardAux P2 4 (⟨N1, N2, N2, N0, N1, N2, N0, N1, N2⟩ : Grid) P1 = some (ZP, none) :=
  rfl

theorem v122012010 : readBoardAux P2 5 (⟨N1, N2, N2, N0, N1, N2, N0, N1, N0⟩ : Grid) P2 = some (ZP, some M22) :=
  readBoardAux_step P2 4 (⟨N1, N2, N2, N0, N1, N2, N0, N1, N0⟩ : Grid) P2 [M10, M20, M22] rfl rfl
    (collectScores_cons v122212010 (collectScores_cons v122012210 (collectScores_cons t122012012 collectScores_nil))) rfl

theorem t122012001 : readBoardAux P2 5 (⟨N1, N2, N2, N0, N1, N2, N0, N0, N1⟩ : Grid) P2 = some (ZM, none) :=
  rfl

theorem v122012000 : readBoardAux P2 6 (⟨N1, N2, N2, N0, N1, N2, N0, N0, N0⟩ : Grid) P1 = some (ZM, some M22) :=
  readBoardAux_step P2 5 (⟨N1, N2, N2, N0, N1, N2, N0, N0, N0⟩ : Grid) P1 [M10, M20, M21, M22] rfl rfl
    (collectScores_cons v122112000 (collectScores_cons v122012100 (collectScores_cons v122012010 (collectScores_cons t122012001 collectScores_nil)))) rfl

theorem t122011221 : readBoardAux P2 3 (⟨N1, N2, N2, N0, N1, N1, N2, N2, N1⟩ : Grid) P2 = some (ZM, none) :=
  rfl

theorem v122011220 : readBoardAux P2 4 (⟨N1, N2, N2, N0, N1, N1, N2, N2, N0⟩ : Grid) P1 = some (ZM, some M10) :=
  readBoardAux_step P2 3 (⟨N1, N2, N2, N0, N1, N1, N2, N2, N0⟩ : Grid) P1 [M10, M22] rfl rfl
    (collectScores_cons t122111220 (collectScores_cons t122011221 collectScores_nil)) rfl

theorem v122011212 : readBoardAux P2 3 (⟨N1, N2, N2, N0, N1, N1, N2, N1, N2⟩ : Grid) P2 = some (Z0, some M10) :=
  readBoardAux_step P2 2 (⟨N1, N2, N2, N0, N1, N1, N2, N1, N2⟩ : Grid) P2 [M10] rfl rfl
    (collectScores_cons t122211212 collectScores_nil) rfl

theorem v122011202 : readBoardAux P2 4 (⟨N1, N2, N2, N0, N1, N1, N2, N0, N2⟩ : Grid) P1 = some (ZM, some M10) :=
  readBoardAux_step P2 3 (⟨N1, N2, N2, N0, N1, N1, N2, N0, N2⟩ : Grid) P1 [M10, M21] rfl rfl
    (collectScores_cons t122111202 (collectScores_cons v122011212 collectScores_nil)) rfl

theorem v122011200 : readBoardAux P2 5 (⟨N1, N2, N2, N0, N1, N1, N2, N0, N0⟩ : Grid) P2 = some (ZM, some M10) :=
  readBoardAux_step P2 4 (⟨N1, N2, N2, N0, N1, N1, N2, N0, N0⟩ : Grid) P2 [M10, M21, M22] rfl rfl
    (collectScores_cons v122211200 (collectScores_cons v122011220 (collectScores_cons v122011202 collectScores_nil))) rfl

theorem v122010212 : readBoardAux P2 4 (⟨N1, N2, N2, N0, N1, N0, N2, N1, N2⟩ : Grid) P1 = some (Z0, some M12) :=
  readBoardAux_step P2 3 (⟨N1, N2, N2, N0, N1, N0, N2, N1, N2⟩ : Grid) P1 [M10, M12] rfl rfl
    (collectScores_cons v122110212 (collectScores_cons v122011212 collectScores_nil)) rfl

theorem v122010210 : readBoardAux P2 5 (⟨N1, N2, N2, N0, N1, N0, N2, N1, N0⟩ : Grid) P2 = some (Z0, some M22) :=
  readBoardAux_step P2 4 (⟨N1, N2, N2, N0, N1, N0, N2, N1, N0⟩ : Grid) P2 [M10, M12, M22] rfl rfl
    (collectScores_cons v122210210 (collectScores_cons v122012210 (collectScores_cons v122010212 collectScores_nil))) rfl

theorem t122010201 : readBoardAux P2 5 (⟨N1, N2, N2, N0, N1, N0, N2, N0, N1⟩ : Grid) P2 = some (ZM, none) :=
  rfl

theorem v122010200 : readBoardAux P2 6 (⟨N1, N2, N2, N0, N1, N0, N2, N0, N0⟩ : Grid) P1 = some (ZM, some M10) :=
  readBoardAux_step P2 5 (⟨N1, N2, N2, N0, N1, N0, N2, N0, N0⟩ : Grid) P1 [M10, M12, M21, M22] rfl rfl
    (collectScores_cons v122110200 (collectScores_cons v122011200 (collectScores_cons v122010210 (collectScores_cons t122010201 collectScores_nil)))) rfl

theorem v122011122 : readBoardAux P2 3 (⟨N1, N2, N2, N0, N1, N1, N1, N2, N2⟩ : Grid) P2 = some (Z0, some M10) :=
  readBoardAux_step P2 2 (⟨N1, N2, N2, N0, N1, N1, N1, N2, N2⟩ : Grid) P2 [M10] rfl rfl
    (collectScores_cons t122211122 collectScores_nil) rfl

theorem v122011022 : readBoardAux P2 4 (⟨N1, N2, N2, N0, N1, N1, N0, N2, N2⟩ : Grid) P1 = some (ZM, some M10) :=
  readBoardAux_step P2 3 (⟨N1, N2, N2, N0, N1, N1, N0, N2, N2⟩ : Grid) P1 [M10, M20] rfl rfl
    (collectScores_cons t122111022 (collectScores_cons v122011122 collectScores_nil)) rfl

theorem v122011020 : readBoardAux P2 5 (⟨N1, N2, N2, N0, N1, N1, N0, N2, N0⟩ : Grid) P2 = some (ZM, some M10) :=
  readBoardAux_step P2 4 (⟨N1, N2, N2, N0, N1, N1, N0, N2, N0⟩ : Grid) P2 [M10, M20, M22] rfl rfl
    (collectScores_cons v122211020 (collectScores_cons v122011220 (collectScores_cons v122011022 collectScores_nil))) rfl

theorem v122010122 : readBoardAux P2 4 (⟨N1, N2, N2, N0, N1, N0, N1, N2, N2⟩ : Grid) P1 = some (ZM, some M10) :=
  readBoardAux_step P2 3 (⟨N1, N2, N2, N0, N1, N0, N1, N2, N2⟩ : Grid) P1 [M10, M12] rfl rfl
    (collectScores_cons t122110122 (collectScores_cons v122011122 collectScores_nil)) rfl

theorem v122010120 : readBoardAux P2 5 (⟨N1, N2, N2, N0, N1, N0, N1, N2, N0⟩ : Grid) P2 = some (ZM, some M10) :=
  readBoardAux_step P2 4 (⟨N1, N2, N2, N0, N1, N0, N1, N2, N0⟩ : Grid) P2 [M10, M12, M22] rfl rfl
    (collectScores_cons v122210120 (collectScores_cons v122012120 (collectScores_cons v122010122 collectScores_nil))) rfl

theorem t122010021 : readBoardAux P2 5 (⟨N1, N2, N2, N0, N1, N0, N0, N2, N1⟩ : Grid) P2 = some (ZM, none) :=
  rfl

theorem v122010020 : readBoardAux P2 6 (⟨N1, N2, N2, N0, N1, N0, N0, N2, N0⟩ : Grid) P1 = some (ZM, some M10) :=
  readBoardAux_step P2 5 (⟨N1, N2, N2, N0, N1, N0, N0, N2, N0⟩ : Grid) P1 [M10, M12, M20, M22] rfl rfl
    (collectScores_cons v122110020 (collectScores_cons v122011020 (collectScores_cons v122010120 (collectScores_cons t122010021 collectScores_nil)))) rfl

theorem v122011002 : readBoardAux P2 5 (⟨N1, N2, N2, N0, N1, N1, N0, N0, N2⟩ : Grid) P2 = some (Z0, some M10) :=
  readBoardAux_step P2 4 (⟨N1, N2, N2, N0, N1, N1, N0, N0, N2⟩ : Grid) P2 [M10, M20, M21] rfl rfl
    (collectScores_cons v122211002 (collectScores_cons v122011202 (collectScores_cons v122011022 collectScores_nil))) rfl

theorem v122010102 : readBoardAux P2 5 (⟨N1, N2, N2, N0, N1, N0, N1, N0, N2⟩ : Grid) P2 = some (ZP, some M12) :=
  readBoardAux_step P2 4 (⟨N1, N2, N2, N0, N1, N0, N1, N0, N2⟩ : Grid) P2 [M10, M12, M21] rfl rfl
    (collectScores_cons v122210102 (collectScores_cons t122012102 (collectScores_cons v122010122 collectScores_nil))) rfl

theorem v122010012 : readBoardAux P2 5 (⟨N1, N2, N2, N0, N1, N0, N0, N1, N2⟩ : Grid) P2 = some (ZP, some M12) :=
  readBoardAux_step P2 4 (⟨N1, N2, N2, N0, N1, N0, N0, N1, N2⟩ : Grid) P2 [M10, M12, M20] rfl rfl
    (collectScores_cons v122210012 (collectScores_cons t122012012 (collectScores_cons v122010212 collectScores_nil))) rfl

theorem v122010002 : readBoardAux P2 6 (⟨N1, N2, N2, N0, N1, N0, N0, N0, N2⟩ : Grid) P1 = some (Z0, some M12) :=
  readBoardAux_step P2 5 (⟨N1, N2, N2, N0, N1, N0, N0, N0, N2⟩ : Grid) P1 [M10, M12, M20, M21] rfl rfl
    (collectScores_cons v122110002 (collectScores_cons v122011002 (collectScores_cons v122010102 (collectScores_cons v122010012 collectScores_nil)))) rfl

theorem v122010000 : readBoardAux P2 7 (⟨N1, N2, N2, N0, N1, N0, N0, N0, N0⟩ : Grid) P2 = some (Z0, some M22) :=
  readBoardAux_step P2 6 (⟨N1, N2, N2, N0, N1, N0, N0, N0, N0⟩ : Grid) P2 [M10, M12, M20, M21, M22] rfl rfl
    (collectScores_cons v122210000 (collectScores_cons v122012000 (collectScores_cons v122010200 (collectScores_cons v122010020 (collectScores_cons v122010002 collectScores_nil))))) rfl

theorem t122221112 : readBoardAux P2 2 (⟨N1, N2, N2, N2, N2, N1, N1, N1, N2⟩ : Grid) P1 = some (Z0, none) :=
  rfl

theorem v122221110 : readBoardAux P2 3 (⟨N1, N2, N2, N2, N2, N1, N1, N1, N0⟩ : Grid) P2 = some (Z0, some M22) :=
  readBoardAux_step P2 2 (⟨N1, N2, N2, N2, N2, N1, N1, N1, N0⟩ : Grid) P2 [M22] rfl rfl
    (collectScores_cons t122221112 collectScores_nil) rfl

theorem t122221121 : readBoardAux P2 2 (⟨N1, N2, N2, N2, N2, N1, N1, N2, N1⟩ : Grid) P1 = some (ZP, none) :=
  rfl

theorem v122221101 : readBoardAux P2 3 (⟨N1, N2, N2, N2, N2, N1, N1, N0, N1⟩ : Grid) P2 = some (ZP, some M21) :=
  readBoardAux_step P2 2 (⟨N1, N2, N2, N2, N2, N1, N1, N0, N1⟩ : Grid) P2 [M21] rfl rfl
    (collectScores_cons t122221121 collectScores_nil) rfl

theorem v122221100 : readBoardAux P2 4 (⟨N1, N2, N2, N2, N2, N1, N1, N0, N0⟩ : Grid) P1 = some (Z0, some M21) :=
  readBoardAux_step P2 3 (⟨N1, N2, N2, N2, N2, N1, N1, N0, N0⟩ : Grid) P1 [M21, M22] rfl rfl
    (collectScores_cons v122221110 (collectScores_cons v122221101 collectScores_nil)) rfl

theorem v122201121 : readBoardAux P2 3 (⟨N1, N2, N2, N2, N0, N1, N1, N2, N1⟩ : Grid) P2 = some (ZP, some M11) :=
  readBoardAux_step P2 2 (⟨N1, N2, N2, N2, N0, N1, N1, N2, N1⟩ : Grid) P2 [M11] rfl rfl
    (collectScores_cons t122221121 collectScores_nil) rfl

theorem v122201120 : readBoardAux P2 4 (⟨N1, N2, N2, N2, N0, N1, N1, N2, N0⟩ : Grid) P1 = some (Z0, some M11) :=
  readBoardAux_step P2 3 (⟨N1, N2, N2, N2, N0, N1, N1, N2, N0⟩ : Grid) P1 [M11, M22] rfl rfl
    (collectScores_cons v122211120 (collectScores_cons v122201121 collectScores_nil)) rfl

theorem v122201112 : readBoardAux P2 3 (⟨N1, N2, N2, N2, N0, N1, N1, N1, N2⟩ : Grid) P2 = some (Z0, some M11) :=
  readBoardAux_step P2 2 (⟨N1, N2, N2, N2, N0, N1, N1, N1, N2⟩ : Grid) P2 [M11] rfl rfl
    (collectScores_cons t122221112 collectScores_nil) rfl

theorem v122201102 : readBoardAux P2 4 (⟨N1, N2, N2, N2, N0, N1, N1, N0, N2⟩ : Grid) P1 = some (Z0, some M11) :=
  readBoardAux_step P2 3 (⟨N1, N2, N2, N2, N0, N1, N1, N0, N2⟩ : Grid) P1 [M11, M21] rfl rfl
    (collectScores_cons v122211102 (collectScores_cons v122201112 collectScores_nil)) rfl

theorem v122201100 : readBoardAux P2 5 (⟨N1, N2, N2, N2, N0, N1, N1, N0, N0⟩ : Grid) P2 = some (Z0, some M11) :=
  readBoardAux_step P2 4 (⟨N1, N2, N2, N2, N0, N1, N1, N0, N0⟩ : Grid) P2 [M11, M21, M22] rfl rfl
    (collectScores_cons v122221100 (collectScores_cons v122201120 (collectScores_cons v122201102 collectScores_nil))) rfl

theorem t122221211 : readBoardAux P2 2 (⟨N1, N2, N2, N2, N2, N1, N2, N1, N1⟩ : Grid) P1 = some (ZP, none) :=
  rfl

theorem v122221011 : readBoardAux P2 3 (⟨N1, N2, N2, N2, N2, N1, N0, N1, N1⟩ : Grid) P2 = some (ZP, some M20) :=
  readBoardAux_step P2 2 (⟨N1, N2, N2, N2, N2, N1, N0, N1, N1⟩ : Grid) P2 [M20] rfl rfl
    (collectScores_cons t122221211 collectScores_nil) rfl

theorem v122221010 : readBoardAux P2 4 (⟨N1, N2, N2, N2, N2, N1, N0, N1, N0⟩ : Grid) P1 = some (Z0, some M20) :=
  readBoardAux_step P2 3 (⟨N1, N2, N2, N2, N2, N1, N0, N1, N0⟩ : Grid) P1 [M20, M22] rfl rfl
    (collectScores_cons v122221110 (collectScores_cons v122221011 collectScores_nil)) rfl

theorem v122201211 : readBoardAux P2 3 (⟨N1, N2, N2, N2, N0, N1, N2, N1, N1⟩ : Grid) P2 = some (ZP, some M11) :=
  readBoardAux_step P2 2 (⟨N1, N2, N2, N2, N0, N1, N2, N1, N1⟩ : Grid) P2 [M11] rfl rfl
    (collectScores_cons t122221211 collectScores_nil) rfl

theorem v122201210 : readBoardAux P2 4 (⟨N1, N2, N2, N2, N0, N1, N2, N1, N0⟩ : Grid) P1 = some (Z0, some M11) :=
  readBoardAux_step P2 3 (⟨N1, N2, N2, N2, N0, N1, N2, N1, N0⟩ : Grid) P1 [M11, M22] rfl rfl
    (collectScores_cons v122211210 (collectScores_cons v122201211 collectScores_nil)) rfl

theorem v122201012 : readBoardAux P2 4 (⟨N1, N2, N2, N2, N0, N1, N0, N1, N2⟩ : Grid) P1 = some (Z0, some M11) :=
  readBoardAux_step P2 3 (⟨N1, N2, N2, N2, N0, N1, N0, N1, N2⟩ : Grid) P1 [M11, M20] rfl rfl
    (collectScores_cons v122211012 (collectScores_cons v122201112 collectScores_nil)) rfl

theorem v122201010 : readBoardAux P2 5 (⟨N1, N2, N2, N2, N0, N1, N0, N1, N0⟩ : Grid) P2 = some (Z0, some M11) :=
  readBoardAux_step P2 4 (⟨N1, N2, N2, N2, N0, N1, N0, N1, N0⟩ : Grid) P2 [M11, M20, M22] rfl rfl
    (collectScores_cons v122221010 (collectScores_cons v122201210 (collectScores_cons v122201012 collectScores_nil))) rfl

theorem v122221001 : readBoardAux P2 4 (⟨N1, N2, N2, N2, N2, N1, N0, N0, N1⟩ : Grid) P1 = some (ZP, some M20) :=
  readBoardAux_step P2 3 (⟨N1, N2, N2, N2, N2, N1, N0, N0, N1⟩ : Grid) P1 [M20, M21] rfl rfl
    (collectScores_cons v122221101 (collectScores_cons v122221011 collectScores_nil)) rfl

theorem v122201201 : readBoardAux P2 4 (⟨N1, N2, N2, N2, N0, N1, N2, N0, N1⟩ : Grid) P1 = some (ZM, some M11) :=
  readBoardAux_step P2 3 (⟨N1, N2, N2, N2, N0, N1, N2, N0, N1⟩ : Grid) P1 [M11, M21] rfl rfl
    (collectScores_cons t122211201 (collectScores_cons v122201211 collectScores_nil)) rfl

theorem v122201021 : readBoardAux P2 4 (⟨N1, N2, N2, N2, N0, N1, N0, N2, N1⟩ : Grid) P1 = some (ZM, some M11) :=
  readBoardAux_step P2 3 (⟨N1, N2, N2, N2, N0, N1, N0, N2, N1⟩ : Grid) P1 [M11, M20] rfl rfl
    (collectScores_cons t122211021 (collectScores_cons v122201121 collectScores_nil)) rfl

theorem v122201001 : readBoardAux P2 5 (⟨N1, N2, N2, N2, N0, N1, N0, N0, N1⟩ : Grid) P2 = some (ZP, some M11) :=
  readBoardAux_step P2 4 (⟨N1, N2, N2, N2, N0, N1, N0, N0, N1⟩ : Grid) P2 [M11, M20, M21] rfl rfl
    (collectScores_cons v122221001 (collectScores_cons v122201201 (collectScores_cons v122201021 collectScores_nil))) rfl

theorem v122201000 : readBoardAux P2 6 (⟨N1, N2, N2, N2, N0, N1, N0, N0, N0⟩ : Grid) P1 = some (Z0, some M11) :=
  readBoardAux_step P2 5 (⟨N1, N2, N2, N2, N0, N1, N0, N0, N0⟩ : Grid) P1 [M11, M20, M21, M22] rfl rfl
    (collectScores_cons v122211000 (collectScores_cons v122201100 (collectScores_cons v122201010 (collectScores_cons v122201001 collectScores_nil)))) rfl

theorem t122021120 : readBoardAux P2 4 (⟨N1, N2, N2, N0, N2, N1, N1, N2, N0⟩ : Grid) P1 = some (ZP, none) :=
  rfl

theorem v122021112 : readBoardAux P2 3 (⟨N1, N2, N2, N0, N2, N1, N1, N1, N2⟩ : Grid) P2 = some (Z0, some M10) :=
  readBoardAux_step P2 2 (⟨N1, N2, N2, N0, N2, N1, N1, N1, N2⟩ : Grid) P2 [M10] rfl rfl
    (collectScores_cons t122221112 collectScores_nil) rfl

theorem v122021102 : readBoardAux P2 4 (⟨N1, N2, N2, N0, N2, N1, N1, N0, N2⟩ : Grid) P1 = some (ZM, some M10) :=
  readBoardAux_step P2 3 (⟨N1, N2, N2, N0, N2, N1, N1, N0, N2⟩ : Grid) P1 [M10, M21] rfl rfl
    (collectScores_cons t122121102 (collectScores_cons v122021112 collectScores_nil)) rfl

theorem v122021100 : readBoardAux P2 5 (⟨N1, N2, N2, N0, N2, N1, N1, N0, N0⟩ : Grid) P2 = some (ZP, some M21) :=
  readBoardAux_step P2 4 (⟨N1, N2, N2, N0, N2, N1, N1, N0, N0⟩ : Grid) P2 [M10, M21, M22] rfl rfl
    (collectScores_cons v122221100 (collectScores_cons t122021120 (collectScores_cons v122021102 collectScores_nil))) rfl

theorem t122021210 : readBoardAux P2 4 (⟨N1, N2, N2, N0, N2, N1, N2, N1, N0⟩ : Grid) P1 = some (ZP, none) :=
  rfl

theorem v122021012 : readBoardAux P2 4 (⟨N1, N2, N2, N0, N2, N1, N0, N1, N2⟩ : Grid) P1 = some (Z0, some M20) :=
  readBoardAux_step P2 3 (⟨N1, N2, N2, N0, N2, N1, N0, N1, N2⟩ : Grid) P1 [M10, M20] rfl rfl
    (collectScores_cons v122121012 (collectScores_cons v122021112 collectScores_nil)) rfl

theorem v122021010 : readBoardAux P2 5 (⟨N1, N2, N2, N0, N2, N1, N0, N1, N0⟩ : Grid) P2 = some (ZP, some M20) :=
  readBoardAux_step P2 4 (⟨N1, N2, N2, N0, N2, N1, N0, N1, N0⟩ : Grid) P2 [M10, M20, M22] rfl rfl
    (collectScores_cons v122221010 (collectScores_cons t122021210 (collectScores_cons v122021012 collectScores_nil))) rfl

theorem t122021201 : readBoardAux P2 4 (⟨N1, N2, N2, N0, N2, N1, N2, N0, N1⟩ : Grid) P1 = some (ZP, none) :=
  rfl

theorem t122021021 : readBoardAux P2 4 (⟨N1, N2, N2, N0, N2, N1, N0, N2, N1⟩ : Grid) P1 = some (ZP, none) :=
  rfl

theorem v122021001 : readBoardAux P2 5 (⟨N1, N2, N2, N0, N2, N1, N0, N0, N1⟩ : Grid) P2 = some (ZP, some M10) :=
  readBoardAux_step P2 4 (⟨N1, N2, N2, N0, N2, N1, N0, N0, N1⟩ : Grid) P2 [M10, M20, M21] rfl rfl
    (collectScores_cons v122221001 (collectScores_cons t122021201 (collectScores_cons t122021021 collectScores_nil))) rfl

theorem v122021000 : readBoardAux P2 6 (⟨N1, N2, N2, N0, N2, N1, N0, N0, N0⟩ : Grid) P1 = some (ZP, some M10) :=
  readBoardAux_step P2 5 (⟨N1, N2, N2, N0, N2, N1, N0, N0, N0⟩ : Grid) P1 [M10, M20, M21, M22] rfl rfl
    (collectScores_cons v122121000 (collectScores_cons v122021100 (collectScores_cons v122021010 (collectScores_cons v122021001 collectScores_nil)))) rfl

theorem v122001212 : readBoardAux P2 4 (⟨N1, N2, N2, N0, N0, N1, N2, N1, N2⟩ : Grid) P1 = some (Z0, some M11) :=
  readBoardAux_step P2 3 (⟨N1, N2, N2, N0, N0, N1, N2, N1, N2⟩ : Grid) P1 [M10, M11] rfl rfl
    (collectScores_cons v122101212 (collectScores_cons v122011212 collectScores_nil)) rfl

theorem v122001210 : readBoardAux P2 5 (⟨N1, N2, N2, N0, N0, N1, N2, N1, N0⟩ : Grid) P2 = some (ZP, some M11) :=
  readBoardAux_step P2 4 (⟨N1, N2, N2, N0, N0, N1, N2, N1, N0⟩ : Grid) P2 [M10, M11, M22] rfl rfl
    (collectScores_cons v122201210 (collectScores_cons t122021210 (collectScores_cons v122001212 collectScores_nil))) rfl

theorem v122001221 : readBoardAux P2 4 (⟨N1, N2, N2, N0, N0, N1, N2, N2, N1⟩ : Grid) P1 = some (ZM, some M11) :=
  readBoardAux_step P2 3 (⟨N1, N2, N2, N0, N0, N1, N2, N2, N1⟩ : Grid) P1 [M10, M11] rfl rfl
    (collectScores_cons v122101221 (collectScores_cons t122011221 collectScores_nil)) rfl

theorem v122001201 : readBoardAux P2 5 (⟨N1, N2, N2, N0, N0, N1, N2, N0, N1⟩ : Grid) P2 = some (ZP, some M11) :=
  readBoardAux_step P2 4 (⟨N1, N2, N2, N0, N0, N1, N2, N0, N1⟩ : Grid) P2 [M10, M11, M21] rfl rfl
    (collectScores_cons v122201201 (collectScores_cons t122021201 (collectScores_cons v122001221 collectScores_nil))) rfl

theorem v122001200 : readBoardAux P2 6 (⟨N1, N2, N2, N0, N0, N1, N2, N0, N0⟩ : Grid) P1 = some (ZM, some M11) :=
  readBoardAux_step P2 5 (⟨N1, N2, N2, N0, N0, N1, N2, N0, N0⟩ : Grid) P1 [M10, M11, M21, M22] rfl rfl
    (collectScores_cons v122101200 (collectScores_cons v122011200 (collectScores_cons v122001210 (collectScores_cons v122001201 collectScores_nil)))) rfl

theorem v122001122 : readBoardAux P2 4 (⟨N1, N2, N2, N0, N0, N1, N1, N2, N2⟩ : Grid) P1 = some (ZM, some M10) :=
  readBoardAux_step P2 3 (⟨N1, N2, N2, N0, N0, N1, N1, N2, N2⟩ : Grid) P1 [M10, M11] rfl rfl
    (collectScores_cons t122101122 (collectScores_cons v122011122 collectScores_nil)) rfl

theorem v122001120 : readBoardAux P2 5 (⟨N1, N2, N2, N0, N0, N1, N1, N2, N0⟩ : Grid) P2 = some (ZP, some M11) :=
  readBoardAux_step P2 4 (⟨N1, N2, N2, N0, N0, N1, N1, N2, N0⟩ : Grid) P2 [M10, M11, M22] rfl rfl
    (collectScores_cons v122201120 (collectScores_cons t122021120 (collectScores_cons v122001122 collectScores_nil))) rfl

theorem v122001021 : readBoardAux P2 5 (⟨N1, N2, N2, N0, N0, N1, N0, N2, N1⟩ : Grid) P2 = some (ZP, some M11) :=
  readBoardAux_step P2 4 (⟨N1, N2, N2, N0, N0, N1, N0, N2, N1⟩ : Grid) P2 [M10, M11, M20] rfl rfl
    (collectScores_cons v122201021 (collectScores_cons t122021021 (collectScores_cons v122001221 collectScores_nil))) rfl

theorem v122001020 : readBoardAux P2 6 (⟨N1, N2, N2, N0, N0, N1, N0, N2, N0⟩ : Grid) P1 = some (ZM, some M11) :=
  readBoardAux_step P2 5 (⟨N1, N2, N2, N0, N0, N1, N0, N2, N0⟩ : Grid) P1 [M10, M11, M20, M22] rfl rfl
    (collectScores_cons v122101020 (collectScores_cons v122011020 (collectScores_cons v122001120 (collectScores_cons v122001021 collectScores_nil)))) rfl

theorem v122001102 : readBoardAux P2 5 (⟨N1, N2, N2, N0, N0, N1, N1, N0, N2⟩ : Grid) P2 = some (Z0, some M10) :=
  readBoardAux_step P2 4 (⟨N1, N2, N2, N0, N0, N1, N1, N0, N2⟩ : Grid) P2 [M10, M11, M21] rfl rfl
    (collectScores_cons v122201102 (collectScores_cons v122021102 (collectScores_cons v122001122 collectScores_nil))) rfl

theorem v122001012 : readBoardAux P2 5 (⟨N1, N2, N2, N0, N0, N1, N0, N1, N2⟩ : Grid) P2 = some (Z0, some M10) :=
  readBoardAux_step P2 4 (⟨N1, N2, N2, N0, N0, N1, N0, N1, N2⟩ : Grid) P2 [M10, M11, M20] rfl rfl
    (collectScores_cons v122201012 (collectScores_cons v122021012 (collectScores_cons v122001212 collectScores_nil))) rfl

theorem v122001002 : readBoardAux P2 6 (⟨N1, N2, N2, N0, N0, N1, N0, N0, N2⟩ : Grid) P1 = some (ZM, some M10) :=
  readBoardAux_step P2 5 (⟨N1, N2, N2, N0, N0, N1, N0, N0, N2⟩ : Grid) P1 [M10, M11, M20, M21] rfl rfl
    (collectScores_cons v122101002 (collectScores_cons v122011002 (collectScores_cons v122001102 (collectScores_cons v122001012 collectScores_nil)))) rfl

theorem v122001000 : readBoardAux P2 7 (⟨N1, N2, N2, N0, N0, N1, N0, N0, N0⟩ : Grid) P2 = some (ZP, some M11) :=
  readBoardAux_step P2 6 (⟨N1, N2, N2, N0, N0, N1, N0, N0, N0⟩ : Grid) P2 [M10, M11, M20, M21, M22] rfl rfl
    (collectScores_cons v122201000 (collectScores_cons v122021000 (collectScores_cons v122001200 (collectScores_cons v122001020 (collectScores_cons v122001002 collectScores_nil))))) rfl

theorem t122220111 : readBoardAux P2 3 (⟨N1, N2, N2, N2, N2, N0, N1, N1, N1⟩ : Grid) P2 = some (ZM, none) :=
  rfl

theorem v122220110 : readBoardAux P2 4 (⟨N1, N2, N2, N2, N2, N0, N1, N1, N0⟩ : Grid) P1 = some (ZM, some M22) :=
  readBoardAux_step P2 3 (⟨N1, N2, N2, N2, N2, N0, N1, N1, N0⟩ : Grid) P1 [M12, M22] rfl rfl
    (collectScores_cons v122221110 (collectScores_cons t122220111 collectScores_nil)) rfl

theorem t122202111 : readBoardAux P2 3 (⟨N1, N2, N2, N2, N0, N2, N1, N1, N1⟩ : Grid) P2 = some (ZM, none) :=
  rfl

theorem v122202110 : readBoardAux P2 4 (⟨N1, N2, N2, N2, N0, N2, N1, N1, N0⟩ : Grid) P1 = some (ZM, some M22) :=
  readBoardAux_step P2 3 (⟨N1, N2, N2, N2, N0, N2, N1, N1, N0⟩ : Grid) P1 [M11, M22] rfl rfl
    (collectScores_cons v122212110 (collectScores_cons t122202111 collectScores_nil)) rfl

theorem v122200112 : readBoardAux P2 4 (⟨N1, N2, N2, N2, N0, N0, N1, N1, N2⟩ : Grid) P1 = some (Z0, some M12) :=
  readBoardAux_step P2 3 (⟨N1, N2, N2, N2, N0, N0, N1, N1, N2⟩ : Grid) P1 [M11, M12] rfl rfl
    (collectScores_cons v122210112 (collectScores_cons v122201112 collectScores_nil)) rfl

theorem v122200110 : readBoardAux P2 5 (⟨N1, N2, N2, N2, N0, N0, N1, N1, N0⟩ : Grid) P2 = some (Z0, some M22) :=
  readBoardAux_step P2 4 (⟨N1, N2, N2, N2, N0, N0, N1, N1, N0⟩ : Grid) P2 [M11, M12, M22] rfl rfl
    (collectScores_cons v122220110 (collectScores_cons v122202110 (collectScores_cons v122200112 collectScores_nil))) rfl

theorem v122220101 : readBoardAux P2 4 (⟨N1, N2, N2, N2, N2, N0, N1, N0, N1⟩ : Grid) P1 = some (ZM, some M21) :=
  readBoardAux_step P2 3 (⟨N1, N2, N2, N2, N2, N0, N1, N0, N1⟩ : Grid) P1 [M12, M21] rfl rfl
    (collectScores_cons v122221101 (collectScores_cons t122220111 collectScores_nil)) rfl

theorem v122202101 : readBoardAux P2 4 (⟨N1, N2, N2, N2, N0, N2, N1, N0, N1⟩ : Grid) P1 = some (ZM, some M11) :=
  readBoardAux_step P2 3 (⟨N1, N2, N2, N2, N0, N2, N1, N0, N1⟩ : Grid) P1 [M11, M21] rfl rfl
    (collectScores_cons t122212101 (collectScores_cons t122202111 collectScores_nil)) rfl

theorem v122200121 : readBoardAux P2 4 (⟨N1, N2, N2, N2, N0, N0, N1, N2, N1⟩ : Grid) P1 = some (ZM, some M11) :=
  readBoardAux_step P2 3 (⟨N1, N2, N2, N2, N0, N0, N1, N2, N1⟩ : Grid) P1 [M11, M12] rfl rfl
    (collectScores_cons t122210121 (collectScores_cons v122201121 collectScores_nil)) rfl

theorem v122200101 : readBoardAux P2 5 (⟨N1, N2, N2, N2, N0, N0, N1, N0, N1⟩ : Grid) P2 = some (ZM, some M11) :=
  readBoardAux_step P2 4 (⟨N1, N2, N2, N2, N0, N0, N1, N0, N1⟩ : Grid) P2 [M11, M12, M21] rfl rfl
    (collectScores_cons v122220101 (collectScores_cons v122202101 (collectScores_cons v122200121 collectScores_nil))) rfl

theorem v122200100 : readBoardAux P2 6 (⟨N1, N2, N2, N2, N0, N0, N1, N0, N0⟩ : Grid) P1 = some (ZM, some M22) :=
  readBoardAux_step P2 5 (⟨N1, N2, N2, N2, N0, N0, N1, N0, N0⟩ : Grid) P1 [M11, M12, M21, M22] rfl rfl
    (collectScores_cons v122210100 (collectScores_cons v122201100 (collectScores_cons v122200110 (collectScores_cons v122200101 collectScores_nil)))) rfl

theorem t122022111 : readBoardAux P2 3 (⟨N1, N2, N2, N0, N2, N2, N1, N1, N1⟩ : Grid) P2 = some (ZM, none) :=
  rfl

theorem v122022110 : readBoardAux P2 4 (⟨N1, N2, N2, N0, N2, N2, N1, N1, N0⟩ : Grid) P1 = some (ZM, some M10) :=
  readBoardAux_step P2 3 (⟨N1, N2, N2, N0, N2, N2, N1, N1, N0⟩ : Grid) P1 [M10, M22] rfl rfl
    (collectScores_cons t122122110 (collectScores_cons t122022111 collectScores_nil)) rfl

theorem v122020112 : readBoardAux P2 4 (⟨N1, N2, N2, N0, N2, N0, N1, N1, N2⟩ : Grid) P1 = some (ZM, some M10) :=
  readBoardAux_step P2 3 (⟨N1, N2, N2, N0, N2, N0, N1, N1, N2⟩ : Grid) P1 [M10, M12] rfl rfl
    (collectScores_cons t122120112 (collectScores_cons v122021112 collectScores_nil)) rfl

theorem v122020110 : readBoardAux P2 5 (⟨N1, N2, N2, N0, N2, N0, N1, N1, N0⟩ : Grid) P2 = some (ZM, some M10) :=
  readBoardAux_step P2 4 (⟨N1, N2, N2, N0, N2, N0, N1, N1, N0⟩ : Grid) P2 [M10, M12, M22] rfl rfl
    (collectScores_cons v122220110 (collectScores_cons v122022110 (collectScores_cons v122020112 collectScores_nil))) rfl

theorem v122022101 : readBoardAux P2 4 (⟨N1, N2, N2, N0, N2, N2, N1, N0, N1⟩ : Grid) P1 = some (ZM, some M10) :=
  readBoardAux_step P2 3 (⟨N1, N2, N2, N0, N2, N2, N1, N0, N1⟩ : Grid) P1 [M10, M21] rfl rfl
    (collectScores_cons t122122101 (collectScores_cons t122022111 collectScores_nil)) rfl

theorem t122020121 : readBoardAux P2 4 (⟨N1, N2, N2, N0, N2, N0, N1, N2, N1⟩ : Grid) P1 = some (ZP, none) :=
  rfl

theorem v122020101 : readBoardAux P2 5 (⟨N1, N2, N2, N0, N2, N0, N1, N0, N1⟩ : Grid) P2 = some (ZP, some M21) :=
  readBoardAux_step P2 4 (⟨N1, N2, N2, N0, N2, N0, N1, N0, N1⟩ : Grid) P2 [M10, M12, M21] rfl rfl
    (collectScores_cons v122220101 (collectScores_cons v122022101 (collectScores_cons t122020121 collectScores_nil))) rfl

theorem v122020100 : readBoardAux P2 6 (⟨N1, N2, N2, N0, N2, N0, N1, N0, N0⟩ : Grid) P1 = some (ZM, some M10) :=
  readBoardAux_step P2 5 (⟨N1, N2, N2, N0, N2, N0, N1, N0, N0⟩ : Grid) P1 [M10, M12, M21, M22] rfl rfl
    (collectScores_cons t122120100 (collectScores_cons v122021100 (collectScores_cons v122020110 (collectScores_cons v122020101 collectScores_nil)))) rfl

theorem t122002112 : readBoardAux P2 4 (⟨N1, N2, N2, N0, N0, N2, N1, N1, N2⟩ : Grid) P1 = some (ZP, none) :=
  rfl

theorem v122002110 : readBoardAux P2 5 (⟨N1, N2, N2, N0, N0, N2, N1, N1, N0⟩ : Grid) P2 = some (ZP, some M22) :=
  readBoardAux_step P2 4 (⟨N1, N2, N2, N0, N0, N2, N1, N1, N0⟩ : Grid) P2 [M10, M11, M22] rfl rfl
    (collectScores_cons v122202110 (collectScores_cons v122022110 (collectScores_cons t122002112 collectScores_nil))) rfl

theorem v122002121 : readBoardAux P2 4 (⟨N1, N2, N2, N0, N0, N2, N1, N2, N1⟩ : Grid) P1 = some (ZM, some M10) :=
  readBoardAux_step P2 3 (⟨N1, N2, N2, N0, N0, N2, N1, N2, N1⟩ : Grid) P1 [M10, M11] rfl rfl
    (collectScores_cons t122102121 (collectScores_cons t122012121 collectScores_nil)) rfl

theorem v122002101 : readBoardAux P2 5 (⟨N1, N2, N2, N0, N0, N2, N1, N0, N1⟩ : Grid) P2 = some (ZM, some M10) :=
  readBoardAux_step P2 4 (⟨N1, N2, N2, N0, N0, N2, N1, N0, N1⟩ : Grid) P2 [M10, M11, M21] rfl rfl
    (collectScores_cons v122202101 (collectScores_cons v122022101 (collectScores_cons v122002121 collectScores_nil))) rfl

theorem v122002100 : readBoardAux P2 6 (⟨N1, N2, N2, N0, N0, N2, N1, N0, N0⟩ : Grid) P1 = some (ZM, some M10) :=
  readBoardAux_step P2 5 (⟨N1, N2, N2, N0, N0, N2, N1, N0, N0⟩ : Grid) P1 [M10, M11, M21, M22] rfl rfl
    (collectScores_cons t122102100 (collectScores_cons v122012100 (collectScores_cons v122002110 (collectScores_cons v122002101 collectScores_nil)))) rfl

theorem v122000121 : readBoardAux P2 5 (⟨N1, N2, N2, N0, N0, N0, N1, N2, N1⟩ : Grid) P2 = some (ZP, some M11) :=
  readBoardAux_step P2 4 (⟨N1, N2, N2, N0, N0, N0, N1, N2, N1⟩ : Grid) P2 [M10, M11, M12] rfl rfl
    (collectScores_cons v122200121 (collectScores_cons t122020121 (collectScores_cons v122002121 collectScores_nil))) rfl

theorem v122000120 : readBoardAux P2 6 (⟨N1, N2, N2, N0, N0, N0, N1, N2, N0⟩ : Grid) P1 = some (ZM, some M10) :=
  readBoardAux_step P2 5 (⟨N1, N2, N2, N0, N0, N0, N1, N2, N0⟩ : Grid) P1 [M10, M11, M12, M22] rfl rfl
    (collectScores_cons t122100120 (collectScores_cons v122010120 (collectScores_cons v122001120 (collectScores_cons v122000121 collectScores_nil)))) rfl

theorem v122000112 : readBoardAux P2 5 (⟨N1, N2, N2, N0, N0, N0, N1, N1, N2⟩ : Grid) P2 = some (ZP, some M12) :=
  readBoardAux_step P2 4 (⟨N1, N2, N2, N0, N0, N0, N1, N1, N2⟩ : Grid) P2 [M10, M11, M12] rfl rfl
    (collectScores_cons v122200112 (collectScores_cons v122020112 (collectScores_cons t122002112 collectScores_nil))) rfl

theorem v122000102 : readBoardAux P2 6 (⟨N1, N2, N2, N0, N0, N0, N1, N0, N2⟩ : Grid) P1 = some (ZM, some M10) :=
  readBoardAux_step P2 5 (⟨N1, N2, N2, N0, N0, N0, N1, N0, N2⟩ : Grid) P1 [M10, M11, M12, M21] rfl rfl
    (collectScores_cons t122100102 (collectScores_cons v122010102 (collectScores_cons v122001102 (collectScores_cons v122000112 collectScores_nil)))) rfl

theorem v122000100 : readBoardAux P2 7 (⟨N1, N2, N2, N0, N0, N0, N1, N0, N0⟩ : Grid) P2 = some (ZM, some M10) :=
  readBoardAux_step P2 6 (⟨N1, N2, N2, N0, N0, N0, N1, N0, N0⟩ : Grid) P2 [M10, M11, M12, M21, M22] rfl rfl
    (collectScores_cons v122200100 (collectScores_cons v122020100 (collectScores_cons v122002100 (collectScores_cons v122000120 (collectScores_cons v122000102 collectScores_nil))))) rfl

theorem v122220011 : readBoardAux P2 4 (⟨N1, N2, N2, N2, N2, N0, N0, N1, N1⟩ : Grid) P1 = some (ZM, some M20) :=
  readBoardAux_step P2 3 (⟨N1, N2, N2, N2, N2, N0, N0, N1, N1⟩ : Grid) P1 [M12, M20] rfl rfl
    (collectScores_cons v122221011 (collectScores_cons t122220111 collectScores_nil)) rfl

theorem v122202011 : readBoardAux P2 4 (⟨N1, N2, N2, N2, N0, N2, N0, N1, N1⟩ : Grid) P1 = some (ZM, some M11) :=
  readBoardAux_step P2 3 (⟨N1, N2, N2, N2, N0, N2, N0, N1, N1⟩ : Grid) P1 [M11, M20] rfl rfl
    (collectScores_cons t122212011 (collectScores_cons t122202111 collectScores_nil)) rfl

theorem v122200211 : readBoardAux P2 4 (⟨N1, N2, N2, N2, N0, N0, N2, N1, N1⟩ : Grid) P1 = some (ZM, some M11) :=
  readBoardAux_step P2 3 (⟨N1, N2, N2, N2, N0, N0, N2, N1, N1⟩ : Grid) P1 [M11, M12] rfl rfl
    (collectScores_cons t122210211 (collectScores_cons v122201211 collectScores_nil)) rfl

theorem v122200011 : readBoardAux P2 5 (⟨N1, N2, N2, N2, N0, N0, N0, N1, N1⟩ : Grid) P2 = some (ZM, some M11) :=
  readBoardAux_step P2 4 (⟨N1, N2, N2, N2, N0, N0, N0, N1, N1⟩ : Grid) P2 [M11, M12, M20] rfl rfl
    (collectScores_cons v122220011 (collectScores_cons v122202011 (collectScores_cons v122200211 collectScores_nil))) rfl

theorem v122200010 : readBoardAux P2 6 (⟨N1, N2, N2, N2, N0, N0, N0, N1, N0⟩ : Grid) P1 = some (ZM, some M22) :=
  readBoardAux_step P2 5 (⟨N1, N2, N2, N2, N0, N0, N0, N1, N0⟩ : Grid) P1 [M11, M12, M20, M22] rfl rfl
    (collectScores_cons v122210010 (collectScores_cons v122201010 (collectScores_cons v122200110 (collectScores_cons v122200011 collectScores_nil)))) rfl

theorem v122022011 : readBoardAux P2 4 (⟨N1, N2, N2, N0, N2, N2, N0, N1, N1⟩ : Grid) P1 = some (ZM, some M20) :=
  readBoardAux_step P2 3 (⟨N1, N2, N2, N0, N2, N2, N0, N1, N1⟩ : Grid) P1 [M10, M20] rfl rfl
    (collectScores_cons v122122011 (collectScores_cons t122022111 collectScores_nil)) rfl

theorem t122020211 : readBoardAux P2 4 (⟨N1, N2, N2, N0, N2, N0, N2, N1, N1⟩ : Grid) P1 = some (ZP, none) :=
  rfl

theorem v122020011 : readBoardAux P2 5 (⟨N1, N2, N2, N0, N2, N0, N0, N1, N1⟩ : Grid) P2 = some (ZP, some M20) :=
  readBoardAux_step P2 4 (⟨N1, N2, N2, N0, N2, N0, N0, N1, N1⟩ : Grid) P2 [M10, M12, M20] rfl rfl
    (collectScores_cons v122220011 (collectScores_cons v122022011 (collectScores_cons t122020211 collectScores_nil))) rfl

theorem v122020010 : readBoardAux P2 6 (⟨N1, N2, N2, N0, N2, N0, N0, N1, N0⟩ : Grid) P1 = some (ZM, some M20) :=
  readBoardAux_step P2 5 (⟨N1, N2, N2, N0, N2, N0, N0, N1, N0⟩ : Grid) P1 [M10, M12, M20, M22] rfl rfl
    (collectScores_cons v122120010 (collectScores_cons v122021010 (collectScores_cons v122020110 (collectScores_cons v122020011 collectScores_nil)))) rfl

theorem v122002211 : readBoardAux P2 4 (⟨N1, N2, N2, N0, N0, N2, N2, N1, N1⟩ : Grid) P1 = some (ZM, some M11) :=
  readBoardAux_step P2 3 (⟨N1, N2, N2, N0, N0, N2, N2, N1, N1⟩ : Grid) P1 [M10, M11] rfl rfl
    (collectScores_cons v122102211 (collectScores_cons t122012211 collectScores_nil)) rfl

theorem v122002011 : readBoardAux P2 5 (⟨N1, N2, N2, N0, N0, N2, N0, N1, N1⟩ : Grid) P2 = some (ZM, some M10) :=
  readBoardAux_step P2 4 (⟨N1, N2, N2, N0, N0, N2, N0, N1, N1⟩ : Grid) P2 [M10, M11, M20] rfl rfl
    (collectScores_cons v122202011 (collectScores_cons v122022011 (collectScores_cons v122002211 collectScores_nil))) rfl

theorem v122002010 : readBoardAux P2 6 (⟨N1, N2, N2, N0, N0, N2, N0, N1, N0⟩ : Grid) P1 = some (ZM, some M22) :=
  readBoardAux_step P2 5 (⟨N1, N2, N2, N0, N0, N2, N0, N1, N0⟩ : Grid) P1 [M10, M11, M20, M22] rfl rfl
    (collectScores_cons v122102010 (collectScores_cons v122012010 (collectScores_cons v122002110 (collectScores_cons v122002011 collectScores_nil)))) rfl

theorem v122000211 : readBoardAux P2 5 (⟨N1, N2, N2, N0, N0, N0, N2, N1, N1⟩ : Grid) P2 = some (ZP, some M11) :=
  readBoardAux_step P2 4 (⟨N1, N2, N2, N0, N0, N0, N2, N1, N1⟩ : Grid) P2 [M10, M11, M12] rfl rfl
    (collectScores_cons v122200211 (collectScores_cons t122020211 (collectScores_cons v122002211 collectScores_nil))) rfl

theorem v122000210 : readBoardAux P2 6 (⟨N1, N2, N2, N0, N0, N0, N2, N1, N0⟩ : Grid) P1 = some (Z0, some M11) :=
  readBoardAux_step P2 5 (⟨N1, N2, N2, N0, N0, N0, N2, N1, N0⟩ : Grid) P1 [M10, M11, M12, M22] rfl rfl
    (collectScores_cons v122100210 (collectScores_cons v122010210 (collectScores_cons v122001210 (collectScores_cons v122000211 collectScores_nil)))) rfl

theorem v122000012 : readBoardAux P2 6 (⟨N1, N2, N2, N0, N0, N0, N0, N1, N2⟩ : Grid) P1 = some (Z0, some M12) :=
  readBoardAux_step P2 5 (⟨N1, N2, N2, N0, N0, N0, N0, N1, N2⟩ : Grid) P1 [M10, M11, M12, M20] rfl rfl
    (collectScores_cons v122100012 (collectScores_cons v122010012 (collectScores_cons v122001012 (collectScores_cons v122000112 collectScores_nil)))) rfl

theorem v122000010 : readBoardAux P2 7 (⟨N1, N2, N2, N0, N0, N0, N0, N1, N0⟩ : Grid) P2 = some (Z0, some M20) :=
  readBoardAux_step P2 6 (⟨N1, N2, N2, N0, N0, N0, N0, N1, N0⟩ : Grid) P2 [M10, M11, M12, M20, M22] rfl rfl
    (collectScores_cons v122200010 (collectScores_cons v122020010 (collectScores_cons v122002010 (collectScores_cons v122000210 (collectScores_cons v122000012 collectScores_nil))))) rfl

theorem v122200001 : readBoardAux P2 6 (⟨N1, N2, N2, N2, N0, N0, N0, N0, N1⟩ : Grid) P1 = some (ZM, some M11) :=
  readBoardAux_step P2 5 (⟨N1, N2, N2, N2, N0, N0, N0, N0, N1⟩ : Grid) P1 [M11, M12, M20, M21] rfl rfl
    (collectScores_cons t122210001 (collectScores_cons v122201001 (collectScores_cons v122200101 (collectScores_cons v122200011 collectScores_nil)))) rfl

theorem v122020001 : readBoardAux P2 6 (⟨N1, N2, N2, N0, N2, N0, N0, N0, N1⟩ : Grid) P1 = some (ZP, some M10) :=
  readBoardAux_step P2 5 (⟨N1, N2, N2, N0, N2, N0, N0, N0, N1⟩ : Grid) P1 [M10, M12, M20, M21] rfl rfl
    (collectScores_cons v122120001 (collectScores_cons v122021001 (collectScores_cons v122020101 (collectScores_cons v122020011 collectScores_nil)))) rfl

theorem v122002001 : readBoardAux P2 6 (⟨N1, N2, N2, N0, N0, N2, N0, N0, N1⟩ : Grid) P1 = some (ZM, some M10) :=
  readBoardAux_step P2 5 (⟨N1, N2, N2, N0, N0, N2, N0, N0, N1⟩ : Grid) P1 [M10, M11, M20, M21] rfl rfl
    (collectScores_cons v122102001 (collectScores_cons t122012001 (collectScores_cons v122002101 (collectScores_cons v122002011 collectScores_nil)))) rfl

theorem v122000201 : readBoardAux P2 6 (⟨N1, N2, N2, N0, N0, N0, N2, N0, N1⟩ : Grid) P1 = some (ZM, some M11) :=
  readBoardAux_step P2 5 (⟨N1, N2, N2, N0, N0, N0, N2, N0, N1⟩ : Grid) P1 [M10, M11, M12, M21] rfl rfl
    (collectScores_cons v122100201 (collectScores_cons t122010201 (collectScores_cons v122001201 (collectScores_cons v122000211 collectScores_nil)))) rfl

theorem v122000021 : readBoardAux P2 6 (⟨N1, N2, N2, N0, N0, N0, N0, N2, N1⟩ : Grid) P1 = some (ZM, some M11) :=
  readBoardAux_step P2 5 (⟨N1, N2, N2, N0, N0, N0, N0, N2, N1⟩ : Grid) P1 [M10, M11, M12, M20] rfl rfl
    (collectScores_cons v122100021 (collectScores_cons t122010021 (collectScores_cons v122001021 (collectScores_cons v122000121 collectScores_nil)))) rfl

theorem v122000001 : readBoardAux P2 7 (⟨N1, N2, N2, N0, N0, N0, N0, N0, N1⟩ : Grid) P2 = some (ZP, some M11) :=
  readBoardAux_step P2 6 (⟨N1, N2, N2, N0, N0, N0, N0, N0, N1⟩ : Grid) P2 [M10, M11, M12, M20, M21] rfl rfl
    (collectScores_cons v122200001 (collectScores_cons v122020001 (collectScores_cons v122002001 (collectScores_cons v122000201 (collectScores_cons v122000021 collectScores_nil))))) rfl

theorem v122000000 : readBoardAux P2 8 (⟨N1, N2, N2, N0, N0, N0, N0, N0, N0⟩ : Grid) P1 = some (ZM, some M10) :=
  readBoardAux_step P2 7 (⟨N1, N2, N2, N0, N0, N0, N0, N0, N0⟩ : Grid) P1 [M10, M11, M12, M20, M21, M22] rfl rfl
    (collectScores_cons v122100000 (collectScores_cons v122010000 (collectScores_cons v122001000 (collectScores_cons v122000100 (collectScores_cons v122000010 (collectScores_cons v122000001 collectScores_nil)))))) rfl

theorem t121221212 : readBoardAux P2 2 (⟨N1, N2, N1, N2, N2, N1, N2, N1, N2⟩ : Grid) P1 = some (Z0, none) :=
  rfl

theorem v121221210 : readBoardAux P2 3 (⟨N1, N2, N1, N2, N2, N1, N2, N1, N0⟩ : Grid) P2 = some (Z0, some M22) :=
  readBoardAux_step P2 2 (⟨N1, N2, N1, N2, N2, N1, N2, N1, N0⟩ : Grid) P2 [M22] rfl rfl
    (collectScores_cons t121221212 collectScores_nil) rfl

theorem t121221201 : readBoardAux P2 3 (⟨N1, N2, N1, N2, N2, N1, N2, N0, N1⟩ : Grid) P2 = some (ZM, none) :=
  rfl

theorem v121221200 : readBoardAux P2 4 (⟨N1, N2, N1, N2, N2, N1, N2, N0, N0⟩ : Grid) P1 = some (ZM, some M22) :=
  readBoardAux_step P2 3 (⟨N1, N2, N1, N2, N2, N1, N2, N0, N0⟩ : Grid) P1 [M21, M22] rfl rfl
    (collectScores_cons v121221210 (collectScores_cons t121221201 collectScores_nil)) rfl

theorem t121221020 : readBoardAux P2 4 (⟨N1, N2, N1, N2, N2, N1, N0, N2, N0⟩ : Grid) P1 = some (ZP, none) :=
  rfl

theorem t121221122 : readBoardAux P2 2 (⟨N1, N2, N1, N2, N2, N1, N1, N2, N2⟩ : Grid) P1 = some (ZP, none) :=
  rfl

theorem v121221102 : readBoardAux P2 3 (⟨N1, N2, N1, N2, N2, N1, N1, N0, N2⟩ : Grid) P2 = some (ZP, some M21) :=
  readBoardAux_step P2 2 (⟨N1, N2, N1, N2, N2, N1, N1, N0, N2⟩ : Grid) P2 [M21] rfl rfl
    (collectScores_cons t121221122 collectScores_nil) rfl

theorem v121221012 : readBoardAux P2 3 (⟨N1, N2, N1, N2, N2, N1, N0, N1, N2⟩ : Grid) P2 = some (Z0, some M20) :=
  readBoardAux_step P2 2 (⟨N1, N2, N1, N2, N2, N1, N0, N1, N2⟩ : Grid) P2 [M20] rfl rfl
    (collectScores_cons t121221212 collectScores_nil) rfl

theorem v121221002 : readBoardAux P2 4 (⟨N1, N2, N1, N2, N2, N1, N0, N0, N2⟩ : Grid) P1 = some (Z0, some M21) :=
  readBoardAux_step P2 3 (⟨N1, N2, N1, N2, N2, N1, N0, N0, N2⟩ : Grid) P1 [M20, M21] rfl rfl
    (collectScores_cons v121221102 (collectScores_cons v121221012 collectScores_nil)) rfl

theorem v121221000 : readBoardAux P2 5 (⟨N1, N2, N1, N2, N2, N1, N0, N0, N0⟩ : Grid) P2 = some (ZP, some M21) :=
  readBoardAux_step P2 4 (⟨N1, N2, N1, N2, N2, N1, N0, N0, N0⟩ : Grid) P2 [M20, M21, M22] rfl rfl
    (collectScores_cons v121221200 (collectScores_cons t121221020 (collectScores_cons v121221002 collectScores_nil))) rfl

theorem t121222100 : readBoardAux P2 4 (⟨N1, N2, N1, N2, N2, N2, N1, N0, N0⟩ : Grid) P1 = some (ZP, none) :=
  rfl

theorem t121220120 : readBoardAux P2 4 (⟨N1, N2, N1, N2, N2, N0, N1, N2, N0⟩ : Grid) P1 = some (ZP, none) :=
  rfl

theorem t121222112 : readBoardAux P2 2 (⟨N1, N2, N1, N2, N2, N2, N1, N1, N2⟩ : Grid) P1 = some (ZP, none) :=
  rfl

theorem v121220112 : readBoardAux P2 3 (⟨N1, N2, N1, N2, N2, N0, N1, N1, N2⟩ : Grid) P2 = some (ZP, some M12) :=
  readBoardAux_step P2 2 (⟨N1, N2, N1, N2, N2, N0, N1, N1, N2⟩ : Grid) P2 [M12] rfl rfl
    (collectScores_cons t121222112 collectScores_nil) rfl

theorem v121220102 : readBoardAux P2 4 (⟨N1, N2, N1, N2, N2, N0, N1, N0, N2⟩ : Grid) P1 = some (ZP, some M12) :=
  readBoardAux_step P2 3 (⟨N1, N2, N1, N2, N2, N0, N1, N0, N2⟩ : Grid) P1 [M12, M21] rfl rfl
    (collectScores_cons v121221102 (collectScores_cons v121220112 collectScores_nil)) rfl

theorem v121220100 : readBoardAux P2 5 (⟨N1, N2, N1, N2, N2, N0, N1, N0, N0⟩ : Grid) P2 = some (ZP, some M12) :=
  readBoardAux_step P2 4 (⟨N1, N2, N1, N2, N2, N0, N1, N0, N0⟩ : Grid) P2 [M12, M21, M22] rfl rfl
    (collectScores_cons t121222100 (collectScores_cons t121220120 (collectScores_cons v121220102 collectScores_nil))) rfl

theorem t121222010 : readBoardAux P2 4 (⟨N1, N2, N1, N2, N2, N2, N0, N1, N0⟩ : Grid) P1 = some (ZP, none) :=
  rfl

theorem t121222211 : readBoardAux P2 2 (⟨N1, N2, N1, N2, N2, N2, N2, N1, N1⟩ : Grid) P1 = some (ZP, none) :=
  rfl

theorem v121220211 : readBoardAux P2 3 (⟨N1, N2, N1, N2, N2, N0, N2, N1, N1⟩ : Grid) P2 = some (ZP, some M12) :=
  readBoardAux_step P2 2 (⟨N1, N2, N1, N2, N2, N0, N2, N1, N1⟩ : Grid) P2 [M12] rfl rfl
    (collectScores_cons t121222211 collectScores_nil) rfl

theorem v121220210 : readBoardAux P2 4 (⟨N1, N2, N1, N2, N2, N0, N2, N1, N0⟩ : Grid) P1 = some (Z0, some M12) :=
  readBoardAux_step P2 3 (⟨N1, N2, N1, N2, N2, N0, N2, N1, N0⟩ : Grid) P1 [M12, M22] rfl rfl
    (collectScores_cons v121221210 (collectScores_cons v121220211 collectScores_nil)) rfl

theorem v121220012 : readBoardAux P2 4 (⟨N1, N2, N1, N2, N2, N0, N0, N1, N2⟩ : Grid) P1 = some (Z0, some M12) :=
  readBoardAux_step P2 3 (⟨N1, N2, N1, N2, N2, N0, N0, N1, N2⟩ : Grid) P1 [M12, M20] rfl rfl
    (collectScores_cons v121221012 (collectScores_cons v121220112 collectScores_nil)) rfl

theorem v121220010 : readBoardAux P2 5 (⟨N1, N2, N1, N2, N2, N0, N0, N1, N0⟩ : Grid) P2 = some (ZP, some M12) :=
  readBoardAux_step P2 4 (⟨N1, N2, N1, N2, N2, N0, N0, N1, N0⟩ : Grid) P2 [M12, M20, M22] rfl rfl
    (collectScores_cons t121222010 (collectScores_cons v121220210 (collectScores_cons v121220012 collectScores_nil))) rfl

theorem t121222001 : readBoardAux P2 4 (⟨N1, N2, N1, N2, N2, N2, N0, N0, N1⟩ : Grid) P1 = some (ZP, none) :=
  rfl

theorem v121220201 : readBoardAux P2 4 (⟨N1, N2, N1, N2, N2, N0, N2, N0, N1⟩ : Grid) P1 = some (ZM, some M12) :=
  readBoardAux_step P2 3 (⟨N1, N2, N1, N2, N2, N0, N2, N0, N1⟩ : Grid) P1 [M12, M21] rfl rfl
    (collectScores_cons t121221201 (collectScores_cons v121220211 collectScores_nil)) rfl

theorem t121220021 : readBoardAux P2 4 (⟨N1, N2, N1, N2, N2, N0, N0, N2, N1⟩ : Grid) P1 = some (ZP, none) :=
  rfl

theorem v121220001 : readBoardAux P2 5 (⟨N1, N2, N1, N2, N2, N0, N0, N0, N1⟩ : Grid) P2 = some (ZP, some M12) :=
  readBoardAux_step P2 4 (⟨N1, N2, N1, N2, N2, N0, N0, N0, N1⟩ : Grid) P2 [M12, M20, M21] rfl rfl
    (collectScores_cons t121222001 (collectScores_cons v121220201 (collectScores_cons t121220021 collectScores_nil))) rfl

theorem v121220000 : readBoardAux P2 6 (⟨N1, N2, N1, N2, N2, N0, N0, N0, N0⟩ : Grid) P1 = some (ZP, some M12) :=
  readBoardAux_step P2 5 (⟨N1, N2, N1, N2, N2, N0, N0, N0, N0⟩ : Grid) P1 [M12, M20, M21, M22] rfl rfl
    (collectScores_cons v121221000 (collectScores_cons v121220100 (collectScores_cons v121220010 (collectScores_cons v121220001 collectScores_nil)))) rfl

theorem t121212212 : readBoardAux P2 2 (⟨N1, N2, N1, N2, N1, N2, N2, N1, N2⟩ : Grid) P1 = some (Z0, none) :=
  rfl

theorem v121212210 : readBoardAux P2 3 (⟨N1, N2, N1, N2, N1, N2, N2, N1, N0⟩ : Grid) P2 = some (Z0, some M22) :=
  readBoardAux_step P2 2 (⟨N1, N2, N1, N2, N1, N2, N2, N1, N0⟩ : Grid) P2 [M22] rfl rfl
    (collectScores_cons t121212212 collectScores_nil) rfl

theorem t121212201 : readBoardAux P2 3 (⟨N1, N2, N1, N2, N1, N2, N2, N0, N1⟩ : Grid) P2 = some (ZM, none) :=
  rfl

theorem v121212200 : readBoardAux P2 4 (⟨N1, N2, N1, N2, N1, N2, N2, N0, N0⟩ : Grid) P1 = some (ZM, some M22) :=
  readBoardAux_step P2 3 (⟨N1, N2, N1, N2, N1, N2, N2, N0, N0⟩ : Grid) P1 [M21, M22] rfl rfl
    (collectScores_cons v121212210 (collectScores_cons t121212201 collectScores_nil)) rfl

theorem t121212120 : readBoardAux P2 3 (⟨N1, N2, N1, N2, N1, N2, N1, N2, N0⟩ : Grid) P2 = some (ZM, none) :=
  rfl

theorem t121212021 : readBoardAux P2 3 (⟨N1, N2, N1, N2, N1, N2, N0, N2, N1⟩ : Grid) P2 = some (ZM, none) :=
  rfl

theorem v121212020 : readBoardAux P2 4 (⟨N1, N2, N1, N2, N1, N2, N0, N2, N0⟩ : Grid) P1 = some (ZM, some M20) :=
  readBoardAux_step P2 3 (⟨N1, N2, N1, N2, N1, N2, N0, N2, N0⟩ : Grid) P1 [M20, M22] rfl rfl
    (collectScores_cons t121212120 (collectScores_cons t121212021 collectScores_nil)) rfl

theorem t121212102 : readBoardAux P2 3 (⟨N1, N2, N1, N2, N1, N2, N1, N0, N2⟩ : Grid) P2 = some (ZM, none) :=
  rfl

theorem v121212012 : readBoardAux P2 3 (⟨N1, N2, N1, N2, N1, N2, N0, N1, N2⟩ : Grid) P2 = some (Z0, some M20) :=
  readBoardAux_step P2 2 (⟨N1, N2, N1, N2, N1, N2, N0, N1, N2⟩ : Grid) P2 [M20] rfl rfl
    (collectScores_cons t121212212 collectScores_nil) rfl

theorem v121212002 : readBoardAux P2 4 (⟨N1, N2, N1, N2, N1, N2, N0, N0, N2⟩ : Grid) P1 = some (ZM, some M20) :=
  readBoardAux_step P2 3 (⟨N1, N2, N1, N2, N1, N2, N0, N0, N2⟩ : Grid) P1 [M20, M21] rfl rfl
    (collectScores_cons t121212102 (collectScores_cons v121212012 collectScores_nil)) rfl

theorem v121212000 : readBoardAux P2 5 (⟨N1, N2, N1, N2, N1, N2, N0, N0, N0⟩ : Grid) P2 = some (ZM, some M20) :=
  readBoardAux_step P2 4 (⟨N1, N2, N1, N2, N1, N2, N0, N0, N0⟩ : Grid) P2 [M20, M21, M22] rfl rfl
    (collectScores_cons v121212200 (collectScores_cons v121212020 (collectScores_cons v121212002 collectScores_nil))) rfl

theorem t121222121 : readBoardAux P2 2 (⟨N1, N2, N1, N2, N2, N2, N1, N2, N1⟩ : Grid) P1 = some (ZP, none) :=
  rfl

theorem v121202121 : readBoardAux P2 3 (⟨N1, N2, N1, N2, N0, N2, N1, N2, N1⟩ : Grid) P2 = some (ZP, some M11) :=
  readBoardAux_step P2 2 (⟨N1, N2, N1, N2, N0, N2, N1, N2, N1⟩ : Grid) P2 [M11] rfl rfl
    (collectScores_cons t121222121 collectScores_nil) rfl

theorem v121202120 : readBoardAux P2 4 (⟨N1, N2, N1, N2, N0, N2, N1, N2, N0⟩ : Grid) P1 = some (ZM, some M11) :=
  readBoardAux_step P2 3 (⟨N1, N2, N1, N2, N0, N2, N1, N2, N0⟩ : Grid) P1 [M11, M22] rfl rfl
    (collectScores_cons t121212120 (collectScores_cons v121202121 collectScores_nil)) rfl

theorem v121202112 : readBoardAux P2 3 (⟨N1, N2, N1, N2, N0, N2, N1, N1, N2⟩ : Grid) P2 = some (ZP, some M11) :=
  readBoardAux_step P2 2 (⟨N1, N2, N1, N2, N0, N2, N1, N1, N2⟩ : Grid) P2 [M11] rfl rfl
    (collectScores_cons t121222112 collectScores_nil) rfl

theorem v121202102 : readBoardAux P2 4 (⟨N1, N2, N1, N2, N0, N2, N1, N0, N2⟩ : Grid) P1 = some (ZM, some M11) :=
  readBoardAux_step P2 3 (⟨N1, N2, N1, N2, N0, N2, N1, N0, N2⟩ : Grid) P1 [M11, M21] rfl rfl
    (collectScores_cons t121212102 (collectScores_cons v121202112 collectScores_nil)) rfl

theorem v121202100 : readBoardAux P2 5 (⟨N1, N2, N1, N2, N0, N2, N1, N0, N0⟩ : Grid) P2 = some (ZP, some M11) :=
  readBoardAux_step P2 4 (⟨N1, N2, N1, N2, N0, N2, N1, N0, N0⟩ : Grid) P2 [M11, M21, M22] rfl rfl
    (collectScores_cons t121222100 (collectScores_cons v121202120 (collectScores_cons v121202102 collectScores_nil))) rfl

theorem v121202211 : readBoardAux P2 3 (⟨N1, N2, N1, N2, N0, N2, N2, N1, N1⟩ : Grid) P2 = some (ZP, some M11) :=
  readBoardAux_step P2 2 (⟨N1, N2, N1, N2, N0, N2, N2, N1, N1⟩ : Grid) P2 [M11] rfl rfl
    (collectScores_cons t121222211 collectScores_nil) rfl

theorem v121202210 : readBoardAux P2 4 (⟨N1, N2, N1, N2, N0, N2, N2, N1, N0⟩ : Grid) P1 = some (Z0, some M11) :=
  readBoardAux_step P2 3 (⟨N1, N2, N1, N2, N0, N2, N2, N1, N0⟩ : Grid) P1 [M11, M22] rfl rfl
    (collectScores_cons v121212210 (collectScores_cons v121202211 collectScores_nil)) rfl

theorem v121202012 : readBoardAux P2 4 (⟨N1, N2, N1, N2, N0, N2, N0, N1, N2⟩ : Grid) P1 = some (Z0, some M11) :=
  readBoardAux_step P2 3 (⟨N1, N2, N1, N2, N0, N2, N0, N1, N2⟩ : Grid) P1 [M11, M20] rfl rfl
    (collectScores_cons v121212012 (collectScores_cons v121202112 collectScores_nil)) rfl

theorem v121202010 : readBoardAux P2 5 (⟨N1, N2, N1, N2, N0, N2, N0, N1, N0⟩ : Grid) P2 = some (ZP, some M11) :=
  readBoardAux_step P2 4 (⟨N1, N2, N1, N2, N0, N2, N0, N1, N0⟩ : Grid) P2 [M11, M20, M22] rfl rfl
    (collectScores_cons t121222010 (collectScores_cons v121202210 (collectScores_cons v121202012 collectScores_nil))) rfl

theorem v121202201 : readBoardAux P2 4 (⟨N1, N2, N1, N2, N0, N2, N2, N0, N1⟩ : Grid) P1 = some (ZM, some M11) :=
  readBoardAux_step P2 3 (⟨N1, N2, N1, N2, N0, N2, N2, N0, N1⟩ : Grid) P1 [M11, M21] rfl rfl
    (collectScores_cons t121212201 (collectScores_cons v121202211 collectScores_nil)) rfl

theorem v121202021 : readBoardAux P2 4 (⟨N1, N2, N1, N2, N0, N2, N0, N2, N1⟩ : Grid) P1 = some (ZM, some M11) :=
  readBoardAux_step P2 3 (⟨N1, N2, N1, N2, N0, N2, N0, N2, N1⟩ : Grid) P1 [M11, M20] rfl rfl
    (collectScores_cons t121212021 (collectScores_cons v121202121 collectScores_nil)) rfl

theorem v121202001 : readBoardAux P2 5 (⟨N1, N2, N1, N2, N0, N2, N0, N0, N1⟩ : Grid) P2 = some (ZP, some M11) :=
  readBoardAux_step P2 4 (⟨N1, N2, N1, N2, N0, N2, N0, N0, N1⟩ : Grid) P2 [M11, M20, M21] rfl rfl
    (collectScores_cons t121222001 (collectScores_cons v121202201 (collectScores_cons v121202021 collectScores_nil))) rfl

theorem v121202000 : readBoardAux P2 6 (⟨N1, N2, N1, N2, N0, N2, N0, N0, N0⟩ : Grid) P1 = some (ZM, some M11) :=
  readBoardAux_step P2 5 (⟨N1, N2, N1, N2, N0, N2, N0, N0, N0⟩ : Grid) P1 [M11, M20, M21, M22] rfl rfl
    (collectScores_cons v121212000 (collectScores_cons v121202100 (collectScores_cons v121202010 (collectScores_cons v121202001 collectScores_nil)))) rfl

theorem t121211222 : readBoardAux P2 2 (⟨N1, N2, N1, N2, N1, N1, N2, N2, N2⟩ : Grid) P1 = some (ZP, none) :=
  rfl

theorem v121211220 : readBoardAux P2 3 (⟨N1, N2, N1, N2, N1, N1, N2, N2, N0⟩ : Grid) P2 = some (ZP, some M22) :=
  readBoardAux_step P2 2 (⟨N1, N2, N1, N2, N1, N1, N2, N2, N0⟩ : Grid) P2 [M22] rfl rfl
    (collectScores_cons t121211222 collectScores_nil) rfl

theorem t121210221 : readBoardAux P2 3 (⟨N1, N2, N1, N2, N1, N0, N2, N2, N1⟩ : Grid) P2 = some (ZM, none) :=
  rfl

theorem v121210220 : readBoardAux P2 4 (⟨N1, N2, N1, N2, N1, N0, N2, N2, N0⟩ : Grid) P1 = some (ZM, some M22) :=
  readBoardAux_step P2 3 (⟨N1, N2, N1, N2, N1, N0, N2, N2, N0⟩ : Grid) P1 [M12, M22] rfl rfl
    (collectScores_cons v121211220 (collectScores_cons t121210221 collectScores_nil)) rfl

theorem v121211202 : readBoardAux P2 3 (⟨N1, N2, N1, N2, N1, N1, N2, N0, N2⟩ : Grid) P2 = some (ZP, some M21) :=
  readBoardAux_step P2 2 (⟨N1, N2, N1, N2, N1, N1, N2, N0, N2⟩ : Grid) P2 [M21] rfl rfl
    (collectScores_cons t121211222 collectScores_nil) rfl

theorem v121210212 : readBoardAux P2 3 (⟨N1, N2, N1, N2, N1, N0, N2, N1, N2⟩ : Grid) P2 = some (Z0, some M12) :=
  readBoardAux_step P2 2 (⟨N1, N2, N1, N2, N1, N0, N2, N1, N2⟩ : Grid) P2 [M12] rfl rfl
    (collectScores_cons t121212212 collectScores_nil) rfl

theorem v121210202 : readBoardAux P2 4 (⟨N1, N2, N1, N2, N1, N0, N2, N0, N2⟩ : Grid) P1 = some (Z0, some M21) :=
  readBoardAux_step P2 3 (⟨N1, N2, N1, N2, N1, N0, N2, N0, N2⟩ : Grid) P1 [M12, M21] rfl rfl
    (collectScores_cons v121211202 (collectScores_cons v121210212 collectScores_nil)) rfl

theorem v121210200 : readBoardAux P2 5 (⟨N1, N2, N1, N2, N1, N0, N2, N0, N0⟩ : Grid) P2 = some (Z0, some M22) :=
  readBoardAux_step P2 4 (⟨N1, N2, N1, N2, N1, N0, N2, N0, N0⟩ : Grid) P2 [M12, M21, M22] rfl rfl
    (collectScores_cons v121212200 (collectScores_cons v121210220 (collectScores_cons v121210202 collectScores_nil))) rfl

theorem t121201221 : readBoardAux P2 3 (⟨N1, N2, N1, N2, N0, N1, N2, N2, N1⟩ : Grid) P2 = some (ZM, none) :=
  rfl

theorem v121201220 : readBoardAux P2 4 (⟨N1, N2, N1, N2, N0, N1, N2, N2, N0⟩ : Grid) P1 = some (ZM, some M22) :=
  readBoardAux_step P2 3 (⟨N1, N2, N1, N2, N0, N1, N2, N2, N0⟩ : Grid) P1 [M11, M22] rfl rfl
    (collectScores_cons v121211220 (collectScores_cons t121201221 collectScores_nil)) rfl

theorem v121201212 : readBoardAux P2 3 (⟨N1, N2, N1, N2, N0, N1, N2, N1, N2⟩ : Grid) P2 = some (Z0, some M11) :=
  readBoardAux_step P2 2 (⟨N1, N2, N1, N2, N0, N1, N2, N1, N2⟩ : Grid) P2 [M11] rfl rfl
    (collectScores_cons t121221212 collectScores_nil) rfl

theorem v121201202 : readBoardAux P2 4 (⟨N1, N2, N1, N2, N0, N1, N2, N0, N2⟩ : Grid) P1 = some (Z0, some M21) :=
  readBoardAux_step P2 3 (⟨N1, N2, N1, N2, N0, N1, N2, N0, N2⟩ : Grid) P1 [M11, M21] rfl rfl
    (collectScores_cons v121211202 (collectScores_cons v121201212 collectScores_nil)) rfl

theorem v121201200 : readBoardAux P2 5 (⟨N1, N2, N1, N2, N0, N1, N2, N0, N0⟩ : Grid) P2 = some (Z0, some M22) :=
  readBoardAux_step P2 4 (⟨N1, N2, N1, N2, N0, N1, N2, N0, N0⟩ : Grid) P2 [M11, M21, M22] rfl rfl
    (collectScores_cons v121221200 (collectScores_cons v121201220 (collectScores_cons v121201202 collectScores_nil))) rfl

theorem v121200212 : readBoardAux P2 4 (⟨N1, N2, N1, N2, N0, N0, N2, N1, N2⟩ : Grid) P1 = some (Z0, some M11) :=
  readBoardAux_step P2 3 (⟨N1, N2, N1, N2, N0, N0, N2, N1, N2⟩ : Grid) P1 [M11, M12] rfl rfl
    (collectScores_cons v121210212 (collectScores_cons v121201212 collectScores_nil)) rfl

theorem v121200210 : readBoardAux P2 5 (⟨N1, N2, N1, N2, N0, N0, N2, N1, N0⟩ : Grid) P2 = some (Z0, some M11) :=
  readBoardAux_step P2 4 (⟨N1, N2, N1, N2, N0, N0, N2, N1, N0⟩ : Grid) P2 [M11, M12, M22] rfl rfl
    (collectScores_cons v121220210 (collectScores_cons v121202210 (collectScores_cons v121200212 collectScores_nil))) rfl

theorem v121200221 : readBoardAux P2 4 (⟨N1, N2, N1, N2, N0, N0, N2, N2, N1⟩ : Grid) P1 = some (ZM, some M11) :=
  readBoardAux_step P2 3 (⟨N1, N2, N1, N2, N0, N0, N2, N2, N1⟩ : Grid) P1 [M11, M12] rfl rfl
    (collectScores_cons t121210221 (collectScores_cons t121201221 collectScores_nil)) rfl

theorem v121200201 : readBoardAux P2 5 (⟨N1, N2, N1, N2, N0, N0, N2, N0, N1⟩ : Grid) P2 = some (ZM, some M11) :=
  readBoardAux_step P2 4 (⟨N1, N2, N1, N2, N0, N0, N2, N0, N1⟩ : Grid) P2 [M11, M12, M21] rfl rfl
    (collectScores_cons v121220201 (collectScores_cons v121202201 (collectScores_cons v121200221 collectScores_nil))) rfl

theorem v121200200 : readBoardAux P2 6 (⟨N1, N2, N1, N2, N0, N0, N2, N0, N0⟩ : Grid) P1 = some (ZM, some M22) :=
  readBoardAux_step P2 5 (⟨N1, N2, N1, N2, N0, N0, N2, N0, N0⟩ : Grid) P1 [M11, M12, M21, M22] rfl rfl
    (collectScores_cons v121210200 (collectScores_cons v121201200 (collectScores_cons v121200210 (collectScores_cons v121200201 collectScores_nil)))) rfl

theorem v121211022 : readBoardAux P2 3 (⟨N1, N2, N1, N2, N1, N1, N0, N2, N2⟩ : Grid) P2 = some (ZP, some M20) :=
  readBoardAux_step P2 2 (⟨N1, N2, N1, N2, N1, N1, N0, N2, N2⟩ : Grid) P2 [M20] rfl rfl
    (collectScores_cons t121211222 collectScores_nil) rfl

theorem t121210122 : readBoardAux P2 3 (⟨N1, N2, N1, N2, N1, N0, N1, N2, N2⟩ : Grid) P2 = some (ZM, none) :=
  rfl

theorem v121210022 : readBoardAux P2 4 (⟨N1, N2, N1, N2, N1, N0, N0, N2, N2⟩ : Grid) P1 = some (ZM, some M20) :=
  readBoardAux_step P2 3 (⟨N1, N2, N1, N2, N1, N0, N0, N2, N2⟩ : Grid) P1 [M12, M20] rfl rfl
    (collectScores_cons v121211022 (collectScores_cons t121210122 collectScores_nil)) rfl

theorem v121210020 : readBoardAux P2 5 (⟨N1, N2, N1, N2, N1, N0, N0, N2, N0⟩ : Grid) P2 = some (ZM, some M12) :=
  readBoardAux_step P2 4 (⟨N1, N2, N1, N2, N1, N0, N0, N2, N0⟩ : Grid) P2 [M12, M20, M22] rfl rfl
    (collectScores_cons v121212020 (collectScores_cons v121210220 (collectScores_cons v121210022 collectScores_nil))) rfl

theorem v121201122 : readBoardAux P2 3 (⟨N1, N2, N1, N2, N0, N1, N1, N2, N2⟩ : Grid) P2 = some (ZP, some M11) :=
  readBoardAux_step P2 2 (⟨N1, N2, N1, N2, N0, N1, N1, N2, N2⟩ : Grid) P2 [M11] rfl rfl
    (collectScores_cons t121221122 collectScores_nil) rfl

theorem v121201022 : readBoardAux P2 4 (⟨N1, N2, N1, N2, N0, N1, N0, N2, N2⟩ : Grid) P1 = some (ZP, some M11) :=
  readBoardAux_step P2 3 (⟨N1, N2, N1, N2, N0, N1, N0, N2, N2⟩ : Grid) P1 [M11, M20] rfl rfl
    (collectScores_cons v121211022 (collectScores_cons v121201122 collectScores_nil)) rfl

theorem v121201020 : readBoardAux P2 5 (⟨N1, N2, N1, N2, N0, N1, N0, N2, N0⟩ : Grid) P2 = some (ZP, some M11) :=
  readBoardAux_step P2 4 (⟨N1, N2, N1, N2, N0, N1, N0, N2, N0⟩ : Grid) P2 [M11, M20, M22] rfl rfl
    (collectScores_cons t121221020 (collectScores_cons v121201220 (collectScores_cons v121201022 collectScores_nil))) rfl

theorem v121200122 : readBoardAux P2 4 (⟨N1, N2, N1, N2, N0, N0, N1, N2, N2⟩ : Grid) P1 = some (ZM, some M11) :=
  readBoardAux_step P2 3 (⟨N1, N2, N1, N2, N0, N0, N1, N2, N2⟩ : Grid) P1 [M11, M12] rfl rfl
    (collectScores_cons t121210122 (collectScores_cons v121201122 collectScores_nil)) rfl

theorem v121200120 : readBoardAux P2 5 (⟨N1, N2, N1, N2, N0, N0, N1, N2, N0⟩ : Grid) P2 = some (ZP, some M11) :=
  readBoardAux_step P2 4 (⟨N1, N2, N1, N2, N0, N0, N1, N2, N0⟩ : Grid) P2 [M11, M12, M22] rfl rfl
    (collectScores_cons t121220120 (collectScores_cons v121202120 (collectScores_cons v121200122 collectScores_nil))) rfl

theorem v121200021 : readBoardAux P2 5 (⟨N1, N2, N1, N2, N0, N0, N0, N2, N1⟩ : Grid) P2 = some (ZP, some M11) :=
  readBoardAux_step P2 4 (⟨N1, N2, N1, N2, N0, N0, N0, N2, N1⟩ : Grid) P2 [M11, M12, M20] rfl rfl
    (collectScores_cons t121220021 (collectScores_cons v121202021 (collectScores_cons v121200221 collectScores_nil))) rfl

theorem v121200020 : readBoardAux P2 6 (⟨N1, N2, N1, N2, N0, N0, N0, N2, N0⟩ : Grid) P1 = some (ZM, some M11) :=
  readBoardAux_step P2 5 (⟨N1, N2, N1, N2, N0, N0, N0, N2, N0⟩ : Grid) P1 [M11, M12, M20, M22] rfl rfl
    (collectScores_cons v121210020 (collectScores_cons v121201020 (collectScores_cons v121200120 (collectScores_cons v121200021 collectScores_nil)))) rfl

theorem v121210002 : readBoardAux P2 5 (⟨N1, N2, N1, N2, N1, N0, N0, N0, N2⟩ : Grid) P2 = some (Z0, some M20) :=
  readBoardAux_step P2 4 (⟨N1, N2, N1, N2, N1, N0, N0, N0, N2⟩ : Grid) P2 [M12, M20, M21] rfl rfl
    (collectScores_cons v121212002 (collectScores_cons v121210202 (collectScores_cons v121210022 collectScores_nil))) rfl

theorem v121201002 : readBoardAux P2 5 (⟨N1, N2, N1, N2, N0, N1, N0, N0, N2⟩ : Grid) P2 = some (ZP, some M21) :=
  readBoardAux_step P2 4 (⟨N1, N2, N1, N2, N0, N1, N0, N0, N2⟩ : Grid) P2 [M11, M20, M21] rfl rfl
    (collectScores_cons v121221002 (collectScores_cons v121201202 (collectScores_cons v121201022 collectScores_nil))) rfl

theorem v121200102 : readBoardAux P2 5 (⟨N1, N2, N1, N2, N0, N0, N1, N0, N2⟩ : Grid) P2 = some (ZP, some M11) :=
  readBoardAux_step P2 4 (⟨N1, N2, N1, N2, N0, N0, N1, N0, N2⟩ : Grid) P2 [M11, M12, M21] rfl rfl
    (collectScores_cons v121220102 (collectScores_cons v121202102 (collectScores_cons v121200122 collectScores_nil))) rfl

theorem v121200012 : readBoardAux P2 5 (⟨N1, N2, N1, N2, N0, N0, N0, N1, N2⟩ : Grid) P2 = some (Z0, some M11) :=
  readBoardAux_step P2 4 (⟨N1, N2, N1, N2, N0, N0, N0, N1, N2⟩ : Grid) P2 [M11, M12, M20] rfl rfl
    (collectScores_cons v121220012 (collectScores_cons v121202012 (collectScores_cons v121200212 collectScores_nil))) rfl

theorem v121200002 : readBoardAux P2 6 (⟨N1, N2, N1, N2, N0, N0, N0, N0, N2⟩ : Grid) P1 = some (Z0, some M11) :=
  readBoardAux_step P2 5 (⟨N1, N2, N1, N2, N0, N0, N0, N0, N2⟩ : Grid) P1 [M11, M12, M20, M21] rfl rfl
    (collectScores_cons v121210002 (collectScores_cons v121201002 (collectScores_cons v121200102 (collectScores_cons v121200012 collectScores_nil)))) rfl

theorem v121200000 : readBoardAux P2 7 (⟨N1, N2, N1, N2, N0, N0, N0, N0, N0⟩ : Grid) P2 = some (ZP, some M11) :=
  readBoardAux_step P2 6 (⟨N1, N2, N1, N2, N0, N0, N0, N0, N0⟩ : Grid) P2 [M11, M12, M20, M21, M22] rfl rfl
    (collectScores_cons v121220000 (collectScores_cons v121202000 (collectScores_cons v121200200 (collectScores_cons v121200020 (collectScores_cons v121200002 collectScores_nil))))) rfl

theorem t120212121 : readBoardAux P2 3 (⟨N1, N2, N0, N2, N1, N2, N1, N2, N1⟩ : Grid) P2 = some (ZM, none) :=
  rfl

theorem v120212120 : readBoardAux P2 4 (⟨N1, N2, N0, N2, N1, N2, N1, N2, N0⟩ : Grid) P1 = some (ZM, some M02) :=
  readBoardAux_step P2 3 (⟨N1, N2, N0, N2, N1, N2, N1, N2, N0⟩ : Grid) P1 [M02, M22] rfl rfl
    (collectScores_cons t121212120 (collectScores_cons t120212121 collectScores_nil)) rfl

theorem v120212112 : readBoardAux P2 3 (⟨N1, N2, N0, N2, N1, N2, N1, N1, N2⟩ : Grid) P2 = some (ZP, some M02) :=
  readBoardAux_step P2 2 (⟨N1, N2, N0, N2, N1, N2, N1, N1, N2⟩ : Grid) P2 [M02] rfl rfl
    (collectScores_cons t122212112 collectScores_nil) rfl

theorem v120212102 : readBoardAux P2 4 (⟨N1, N2, N0, N2, N1, N2, N1, N0, N2⟩ : Grid) P1 = some (ZM, some M02) :=
  readBoardAux_step P2 3 (⟨N1, N2, N0, N2, N1, N2, N1, N0, N2⟩ : Grid) P1 [M02, M21] rfl rfl
    (collectScores_cons t121212102 (collectScores_cons v120212112 collectScores_nil)) rfl

theorem v120212100 : readBoardAux P2 5 (⟨N1, N2, N0, N2, N1, N2, N1, N0, N0⟩ : Grid) P2 = some (ZM, some M02) :=
  readBoardAux_step P2 4 (⟨N1, N2, N0, N2, N1, N2, N1, N0, N0⟩ : Grid) P2 [M02, M21, M22] rfl rfl
    (collectScores_cons v122212100 (collectScores_cons v120212120 (collectScores_cons v120212102 collectScores_nil))) rfl

theorem t120212211 : readBoardAux P2 3 (⟨N1, N2, N0, N2, N1, N2, N2, N1, N1⟩ : Grid) P2 = some (ZM, none) :=
  rfl

theorem v120212210 : readBoardAux P2 4 (⟨N1, N2, N0, N2, N1, N2, N2, N1, N0⟩ : Grid) P1 = some (ZM, some M22) :=
  readBoardAux_step P2 3 (⟨N1, N2, N0, N2, N1, N2, N2, N1, N0⟩ : Grid) P1 [M02, M22] rfl rfl
    (collectScores_cons v121212210 (collectScores_cons t120212211 collectScores_nil)) rfl

theorem v120212012 : readBoardAux P2 4 (⟨N1, N2, N0, N2, N1, N2, N0, N1, N2⟩ : Grid) P1 = some (Z0, some M02) :=
  readBoardAux_step P2 3 (⟨N1, N2, N0, N2, N1, N2, N0, N1, N2⟩ : Grid) P1 [M02, M20] rfl rfl
    (collectScores_cons v121212012 (collectScores_cons v120212112 collectScores_nil)) rfl

theorem v120212010 : readBoardAux P2 5 (⟨N1, N2, N0, N2, N1, N2, N0, N1, N0⟩ : Grid) P2 = some (Z0, some M22) :=
  readBoardAux_step P2 4 (⟨N1, N2, N0, N2, N1, N2, N0, N1, N0⟩ : Grid) P2 [M02, M20, M22] rfl rfl
    (collectScores_cons v122212010 (collectScores_cons v120212210 (collectScores_cons v120212012 collectScores_nil))) rfl

theorem t120212001 : readBoardAux P2 5 (⟨N1, N2, N0, N2, N1, N2, N0, N0, N1⟩ : Grid) P2 = some (ZM, none) :=
  rfl

theorem v120212000 : readBoardAux P2 6 (⟨N1, N2, N0, N2, N1, N2, N0, N0, N0⟩ : Grid) P1 = some (ZM, some M02) :=
  readBoardAux_step P2 5 (⟨N1, N2, N0, N2, N1, N2, N0, N0, N0⟩ : Grid) P1 [M02, M20, M21, M22] rfl rfl
    (collectScores_cons v121212000 (collectScores_cons v120212100 (collectScores_cons v120212010 (collectScores_cons t120212001 collectScores_nil)))) rfl

theorem t120211221 : readBoardAux P2 3 (⟨N1, N2, N0, N2, N1, N1, N2, N2, N1⟩ : Grid) P2 = some (ZM, none) :=
  rfl

theorem v120211220 : readBoardAux P2 4 (⟨N1, N2, N0, N2, N1, N1, N2, N2, N0⟩ : Grid) P1 = some (ZM, some M22) :=
  readBoardAux_step P2 3 (⟨N1, N2, N0, N2, N1, N1, N2, N2, N0⟩ : Grid) P1 [M02, M22] rfl rfl
    (collectScores_cons v121211220 (collectScores_cons t120211221 collectScores_nil)) rfl

theorem v120211212 : readBoardAux P2 3 (⟨N1, N2, N0, N2, N1, N1, N2, N1, N2⟩ : Grid) P2 = some (Z0, some M02) :=
  readBoardAux_step P2 2 (⟨N1, N2, N0, N2, N1, N1, N2, N1, N2⟩ : Grid) P2 [M02] rfl rfl
    (collectScores_cons t122211212 collectScores_nil) rfl

theorem v120211202 : readBoardAux P2 4 (⟨N1, N2, N0, N2, N1, N1, N2, N0, N2⟩ : Grid) P1 = some (Z0, some M21) :=
  readBoardAux_step P2 3 (⟨N1, N2, N0, N2, N1, N1, N2, N0, N2⟩ : Grid) P1 [M02, M21] rfl rfl
    (collectScores_cons v121211202 (collectScores_cons v120211212 collectScores_nil)) rfl

theorem v120211200 : readBoardAux P2 5 (⟨N1, N2, N0, N2, N1, N1, N2, N0, N0⟩ : Grid) P2 = some (Z0, some M22) :=
  readBoardAux_step P2 4 (⟨N1, N2, N0, N2, N1, N1, N2, N0, N0⟩ : Grid) P2 [M02, M21, M22] rfl rfl
    (collectScores_cons v122211200 (collectScores_cons v120211220 (collectScores_cons v120211202 collectScores_nil))) rfl

theorem v120210212 : readBoardAux P2 4 (⟨N1, N2, N0, N2, N1, N0, N2, N1, N2⟩ : Grid) P1 = some (Z0, some M02) :=
  readBoardAux_step P2 3 (⟨N1, N2, N0, N2, N1, N0, N2, N1, N2⟩ : Grid) P1 [M02, M12] rfl rfl
    (collectScores_cons v121210212 (collectScores_cons v120211212 collectScores_nil)) rfl

theorem v120210210 : readBoardAux P2 5 (⟨N1, N2, N0, N2, N1, N0, N2, N1, N0⟩ : Grid) P2 = some (Z0, some M22) :=
  readBoardAux_step P2 4 (⟨N1, N2, N0, N2, N1, N0, N2, N1, N0⟩ : Grid) P2 [M02, M12, M22] rfl rfl
    (collectScores_cons v122210210 (collectScores_cons v120212210 (collectScores_cons v120210212 collectScores_nil))) rfl

theorem t120210201 : readBoardAux P2 5 (⟨N1, N2, N0, N2, N1, N0, N2, N0, N1⟩ : Grid) P2 = some (ZM, none) :=
  rfl

theorem v120210200 : readBoardAux P2 6 (⟨N1, N2, N0, N2, N1, N0, N2, N0, N0⟩ : Grid) P1 = some (ZM, some M22) :=
  readBoardAux_step P2 5 (⟨N1, N2, N0, N2, N1, N0, N2, N0, N0⟩ : Grid) P1 [M02, M12, M21, M22] rfl rfl
    (collectScores_cons v121210200 (collectScores_cons v120211200 (collectScores_cons v120210210 (collectScores_cons t120210201 collectScores_nil)))) rfl

theorem v120211122 : readBoardAux P2 3 (⟨N1, N2, N0, N2, N1, N1, N1, N2, N2⟩ : Grid) P2 = some (Z0, some M02) :=
  readBoardAux_step P2 2 (⟨N1, N2, N0, N2, N1, N1, N1, N2, N2⟩ : Grid) P2 [M02] rfl rfl
    (collectScores_cons t122211122 collectScores_nil) rfl

theorem v120211022 : readBoardAux P2 4 (⟨N1, N2, N0, N2, N1, N1, N0, N2, N2⟩ : Grid) P1 = some (Z0, some M20) :=
  readBoardAux_step P2 3 (⟨N1, N2, N0, N2, N1, N1, N0, N2, N2⟩ : Grid) P1 [M02, M20] rfl rfl
    (collectScores_cons v121211022 (collectScores_cons v120211122 collectScores_nil)) rfl

theorem v120211020 : readBoardAux P2 5 (⟨N1, N2, N0, N2, N1, N1, N0, N2, N0⟩ : Grid) P2 = some (Z0, some M22) :=
  readBoardAux_step P2 4 (⟨N1, N2, N0, N2, N1, N1, N0, N2, N0⟩ : Grid) P2 [M02, M20, M22] rfl rfl
    (collectScores_cons v122211020 (collectScores_cons v120211220 (collectScores_cons v120211022 collectScores_nil))) rfl

theorem v120210122 : readBoardAux P2 4 (⟨N1, N2, N0, N2, N1, N0, N1, N2, N2⟩ : Grid) P1 = some (ZM, some M02) :=
  readBoardAux_step P2 3 (⟨N1, N2, N0, N2, N1, N0, N1, N2, N2⟩ : Grid) P1 [M02, M12] rfl rfl
    (collectScores_cons t121210122 (collectScores_cons v120211122 collectScores_nil)) rfl

theorem v120210120 : readBoardAux P2 5 (⟨N1, N2, N0, N2, N1, N0, N1, N2, N0⟩ : Grid) P2 = some (ZM, some M02) :=
  readBoardAux_step P2 4 (⟨N1, N2, N0, N2, N1, N0, N1, N2, N0⟩ : Grid) P2 [M02, M12, M22] rfl rfl
    (collectScores_cons v122210120 (collectScores_cons v120212120 (collectScores_cons v120210122 collectScores_nil))) rfl

theorem t120210021 : readBoardAux P2 5 (⟨N1, N2, N0, N2, N1, N0, N0, N2, N1⟩ : Grid) P2 = some (ZM, none) :=
  rfl

theorem v120210020 : readBoardAux P2 6 (⟨N1, N2, N0, N2, N1, N0, N0, N2, N0⟩ : Grid) P1 = some (ZM, some M02) :=
  readBoardAux_step P2 5 (⟨N1, N2, N0, N2, N1, N0, N0, N2, N0⟩ : Grid) P1 [M02, M12, M20, M22] rfl rfl
    (collectScores_cons v121210020 (collectScores_cons v120211020 (collectScores_cons v120210120 (collectScores_cons t120210021 collectScores_nil)))) rfl

theorem v120211002 : readBoardAux P2 5 (⟨N1, N2, N0, N2, N1, N1, N0, N0, N2⟩ : Grid) P2 = some (Z0, some M02) :=
  readBoardAux_step P2 4 (⟨N1, N2, N0, N2, N1, N1, N0, N0, N2⟩ : Grid) P2 [M02, M20, M21] rfl rfl
    (collectScores_cons v122211002 (collectScores_cons v120211202 (collectScores_cons v120211022 collectScores_nil))) rfl

theorem v120210102 : readBoardAux P2 5 (⟨N1, N2, N0, N2, N1, N0, N1, N0, N2⟩ : Grid) P2 = some (Z0, some M02) :=
  readBoardAux_step P2 4 (⟨N1, N2, N0, N2, N1, N0, N1, N0, N2⟩ : Grid) P2 [M02, M12, M21] rfl rfl
    (collectScores_cons v122210102 (collectScores_cons v120212102 (collectScores_cons v120210122 collectScores_nil))) rfl

theorem v120210012 : readBoardAux P2 5 (⟨N1, N2, N0, N2, N1, N0, N0, N1, N2⟩ : Grid) P2 = some (Z0, some M02) :=
  readBoardAux_step P2 4 (⟨N1, N2, N0, N2, N1, N0, N0, N1, N2⟩ : Grid) P2 [M02, M12, M20] rfl rfl
    (collectScores_cons v122210012 (collectScores_cons v120212012 (collectScores_cons v120210212 collectScores_nil))) rfl

theorem v120210002 : readBoardAux P2 6 (⟨N1, N2, N0, N2, N1, N0, N0, N0, N2⟩ : Grid) P1 = some (Z0, some M02) :=
  readBoardAux_step P2 5 (⟨N1, N2, N0, N2, N1, N0, N0, N0, N2⟩ : Grid) P1 [M02, M12, M20, M21] rfl rfl
    (collectScores_cons v121210002 (collectScores_cons v120211002 (collectScores_cons v120210102 (collectScores_cons v120210012 collectScores_nil)))) rfl

theorem v120210000 : readBoardAux P2 7 (⟨N1, N2, N0, N2, N1, N0, N0, N0, N0⟩ : Grid) P2 = some (Z0, some M22) :=
  readBoardAux_step P2 6 (⟨N1, N2, N0, N2, N1, N0, N0, N0, N0⟩ : Grid) P2 [M02, M12, M20, M21, M22] rfl rfl
    (collectScores_cons v122210000 (collectScores_cons v120212000 (collectScores_cons v120210200 (collectScores_cons v120210020 (collectScores_cons v120210002 collectScores_nil))))) rfl

theorem t120221120 : readBoardAux P2 4 (⟨N1, N2, N0, N2, N2, N1, N1, N2, N0⟩ : Grid) P1 = some (ZP, none) :=
  rfl

theorem v120221112 : readBoardAux P2 3 (⟨N1, N2, N0, N2, N2, N1, N1, N1, N2⟩ : Grid) P2 = some (Z0, some M02) :=
  readBoardAux_step P2 2 (⟨N1, N2, N0, N2, N2, N1, N1, N1, N2⟩ : Grid) P2 [M02] rfl rfl
    (collectScores_cons t122221112 collectScores_nil) rfl

theorem v120221102 : readBoardAux P2 4 (⟨N1, N2, N0, N2, N2, N1, N1, N0, N2⟩ : Grid) P1 = some (Z0, some M21) :=
  readBoardAux_step P2 3 (⟨N1, N2, N0, N2, N2, N1, N1, N0, N2⟩ : Grid) P1 [M02, M21] rfl rfl
    (collectScores_cons v121221102 (collectScores_cons v120221112 collectScores_nil)) rfl

theorem v120221100 : readBoardAux P2 5 (⟨N1, N2, N0, N2, N2, N1, N1, N0, N0⟩ : Grid) P2 = some (ZP, some M21) :=
  readBoardAux_step P2 4 (⟨N1, N2, N0, N2, N2, N1, N1, N0, N0⟩ : Grid) P2 [M02, M21, M22] rfl rfl
    (collectScores_cons v122221100 (collectScores_cons t120221120 (collectScores_cons v120221102 collectScores_nil))) rfl

theorem v120221211 : readBoardAux P2 3 (⟨N1, N2, N0, N2, N2, N1, N2, N1, N1⟩ : Grid) P2 = some (ZP, some M02) :=
  readBoardAux_step P2 2 (⟨N1, N2, N0, N2, N2, N1, N2, N1, N1⟩ : Grid) P2 [M02] rfl rfl
    (collectScores_cons t122221211 collectScores_nil) rfl

theorem v120221210 : readBoardAux P2 4 (⟨N1, N2, N0, N2, N2, N1, N2, N1, N0⟩ : Grid) P1 = some (Z0, some M02) :=
  readBoardAux_step P2 3 (⟨N1, N2, N0, N2, N2, N1, N2, N1, N0⟩ : Grid) P1 [M02, M22] rfl rfl
    (collectScores_cons v121221210 (collectScores_cons v120221211 collectScores_nil)) rfl

theorem v120221012 : readBoardAux P2 4 (⟨N1, N2, N0, N2, N2, N1, N0, N1, N2⟩ : Grid) P1 = some (Z0, some M02) :=
  readBoardAux_step P2 3 (⟨N1, N2, N0, N2, N2, N1, N0, N1, N2⟩ : Grid) P1 [M02, M20] rfl rfl
    (collectScores_cons v121221012 (collectScores_cons v120221112 collectScores_nil)) rfl

theorem v120221010 : readBoardAux P2 5 (⟨N1, N2, N0, N2, N2, N1, N0, N1, N0⟩ : Grid) P2 = some (Z0, some M02) :=
  readBoardAux_step P2 4 (⟨N1, N2, N0, N2, N2, N1, N0, N1, N0⟩ : Grid) P2 [M02, M20, M22] rfl rfl
    (collectScores_cons v122221010 (collectScores_cons v120221210 (collectScores_cons v120221012 collectScores_nil))) rfl

theorem v120221201 : readBoardAux P2 4 (⟨N1, N2, N0, N2, N2, N1, N2, N0, N1⟩ : Grid) P1 = some (ZM, some M02) :=
  readBoardAux_step P2 3 (⟨N1, N2, N0, N2, N2, N1, N2, N0, N1⟩ : Grid) P1 [M02, M21] rfl rfl
    (collectScores_cons t121221201 (collectScores_cons v120221211 collectScores_nil)) rfl

theorem t120221021 : readBoardAux P2 4 (⟨N1, N2, N0, N2, N2, N1, N0, N2, N1⟩ : Grid) P1 = some (ZP, none) :=
  rfl

theorem v120221001 : readBoardAux P2 5 (⟨N1, N2, N0, N2, N2, N1, N0, N0, N1⟩ : Grid) P2 = some (ZP, some M02) :=
  readBoardAux_step P2 4 (⟨N1, N2, N0, N2, N2, N1, N0, N0, N1⟩ : Grid) P2 [M02, M20, M21] rfl rfl
    (collectScores_cons v122221001 (collectScores_cons v120221201 (collectScores_cons t120221021 collectScores_nil))) rfl

theorem v120221000 : readBoardAux P2 6 (⟨N1, N2, N0, N2, N2, N1, N0, N0, N0⟩ : Grid) P1 = some (Z0, some M21) :=
  readBoardAux_step P2 5 (⟨N1, N2, N0, N2, N2, N1, N0, N0, N0⟩ : Grid) P1 [M02, M20, M21, M22] rfl rfl
    (collectScores_cons v121221000 (collectScores_cons v120221100 (collectScores_cons v120221010 (collectScores_cons v120221001 collectScores_nil)))) rfl

theorem v120201212 : readBoardAux P2 4 (⟨N1, N2, N0, N2, N0, N1, N2, N1, N2⟩ : Grid) P1 = some (Z0, some M02) :=
  readBoardAux_step P2 3 (⟨N1, N2, N0, N2, N0, N1, N2, N1, N2⟩ : Grid) P1 [M02, M11] rfl rfl
    (collectScores_cons v121201212 (collectScores_cons v120211212 collectScores_nil)) rfl

theorem v120201210 : readBoardAux P2 5 (⟨N1, N2, N0, N2, N0, N1, N2, N1, N0⟩ : Grid) P2 = some (Z0, some M02) :=
  readBoardAux_step P2 4 (⟨N1, N2, N0, N2, N0, N1, N2, N1, N0⟩ : Grid) P2 [M02, M11, M22] rfl rfl
    (collectScores_cons v122201210 (collectScores_cons v120221210 (collectScores_cons v120201212 collectScores_nil))) rfl

theorem v120201221 : readBoardAux P2 4 (⟨N1, N2, N0, N2, N0, N1, N2, N2, N1⟩ : Grid) P1 = some (ZM, some M02) :=
  readBoardAux_step P2 3 (⟨N1, N2, N0, N2, N0, N1, N2, N2, N1⟩ : Grid) P1 [M02, M11] rfl rfl
    (collectScores_cons t121201221 (collectScores_cons t120211221 collectScores_nil)) rfl

theorem v120201201 : readBoardAux P2 5 (⟨N1, N2, N0, N2, N0, N1, N2, N0, N1⟩ : Grid) P2 = some (ZM, some M02) :=
  readBoardAux_step P2 4 (⟨N1, N2, N0, N2, N0, N1, N2, N0, N1⟩ : Grid) P2 [M02, M11, M21] rfl rfl
    (collectScores_cons v122201201 (collectScores_cons v120221201 (collectScores_cons v120201221 collectScores_nil))) rfl

theorem v120201200 : readBoardAux P2 6 (⟨N1, N2, N0, N2, N0, N1, N2, N0, N0⟩ : Grid) P1 = some (ZM, some M22) :=
  readBoardAux_step P2 5 (⟨N1, N2, N0, N2, N0, N1, N2, N0, N0⟩ : Grid) P1 [M02, M11, M21, M22] rfl rfl
    (collectScores_cons v121201200 (collectScores_cons v120211200 (collectScores_cons v120201210 (collectScores_cons v120201201 collectScores_nil)))) rfl

theorem v120201122 : readBoardAux P2 4 (⟨N1, N2, N0, N2, N0, N1, N1, N2, N2⟩ : Grid) P1 = some (Z0, some M11) :=
  readBoardAux_step P2 3 (⟨N1, N2, N0, N2, N0, N1, N1, N2, N2⟩ : Grid) P1 [M02, M11] rfl rfl
    (collectScores_cons v121201122 (collectScores_cons v120211122 collectScores_nil)) rfl

theorem v120201120 : readBoardAux P2 5 (⟨N1, N2, N0, N2, N0, N1, N1, N2, N0⟩ : Grid) P2 = some (ZP, some M11) :=
  readBoardAux_step P2 4 (⟨N1, N2, N0, N2, N0, N1, N1, N2, N0⟩ : Grid) P2 [M02, M11, M22] rfl rfl
    (collectScores_cons v122201120 (collectScores_cons t120221120 (collectScores_cons v120201122 collectScores_nil))) rfl

theorem v120201021 : readBoardAux P2 5 (⟨N1, N2, N0, N2, N0, N1, N0, N2, N1⟩ : Grid) P2 = some (ZP, some M11) :=
  readBoardAux_step P2 4 (⟨N1, N2, N0, N2, N0, N1, N0, N2, N1⟩ : Grid) P2 [M02, M11, M20] rfl rfl
    (collectScores_cons v122201021 (collectScores_cons t120221021 (collectScores_cons v120201221 collectScores_nil))) rfl

theorem v120201020 : readBoardAux P2 6 (⟨N1, N2, N0, N2, N0, N1, N0, N2, N0⟩ : Grid) P1 = some (Z0, some M11) :=
  readBoardAux_step P2 5 (⟨N1, N2, N0, N2, N0, N1, N0, N2, N0⟩ : Grid) P1 [M02, M11, M20, M22] rfl rfl
    (collectScores_cons v121201020 (collectScores_cons v120211020 (collectScores_cons v120201120 (collectScores_cons v120201021 collectScores_nil)))) rfl

theorem v120201102 : readBoardAux P2 5 (⟨N1, N2, N0, N2, N0, N1, N1, N0, N2⟩ : Grid) P2 = some (Z0, some M02) :=
  readBoardAux_step P2 4 (⟨N1, N2, N0, N2, N0, N1, N1, N0, N2⟩ : Grid) P2 [M02, M11, M21] rfl rfl
    (collectScores_cons v122201102 (collectScores_cons v120221102 (collectScores_cons v120201122 collectScores_nil))) rfl

theorem v120201012 : readBoardAux P2 5 (⟨N1, N2, N0, N2, N0, N1, N0, N1, N2⟩ : Grid) P2 = some (Z0, some M02) :=
  readBoardAux_step P2 4 (⟨N1, N2, N0, N2, N0, N1, N0, N1, N2⟩ : Grid) P2 [M02, M11, M20] rfl rfl
    (collectScores_cons v122201012 (collectScores_cons v120221012 (collectScores_cons v120201212 collectScores_nil))) rfl

theorem v120201002 : readBoardAux P2 6 (⟨N1, N2, N0, N2, N0, N1, N0, N0, N2⟩ : Grid) P1 = some (Z0, some M11) :=
  readBoardAux_step P2 5 (⟨N1, N2, N0, N2, N0, N1, N0, N0, N2⟩ : Grid) P1 [M02, M11, M20, M21] rfl rfl
    (collectScores_cons v121201002 (collectScores_cons v120211002 (collectScores_cons v120201102 (collectScores_cons v120201012 collectScores_nil)))) rfl

theorem v120201000 : readBoardAux P2 7 (⟨N1, N2, N0, N2, N0, N1, N0, N0, N0⟩ : Grid) P2 = some (Z0, some M02) :=
  readBoardAux_step P2 6 (⟨N1, N2, N0, N2, N0, N1, N0, N0, N0⟩ : Grid) P2 [M02, M11, M20, M21, M22] rfl rfl
    (collectScores_cons v122201000 (collectScores_cons v120221000 (collectScores_cons v120201200 (collectScores_cons v120201020 (collectScores_cons v120201002 collectScores_nil))))) rfl

theorem t120222110 : readBoardAux P2 4 (⟨N1, N2, N0, N2, N2, N2, N1, N1, N0⟩ : Grid) P1 = some (ZP, none) :=
  rfl

theorem v120220112 : readBoardAux P2 4 (⟨N1, N2, N0, N2, N2, N0, N1, N1, N2⟩ : Grid) P1 = some (Z0, some M12) :=
  readBoardAux_step P2 3 (⟨N1, N2, N0, N2, N2, N0, N1, N1, N2⟩ : Grid) P1 [M02, M12] rfl rfl
    (collectScores_cons v121220112 (collectScores_cons v120221112 collectScores_nil)) rfl

theorem v120220110 : readBoardAux P2 5 (⟨N1, N2, N0, N2, N2, N0, N1, N1, N0⟩ : Grid) P2 = some (ZP, some M12) :=
  readBoardAux_step P2 4 (⟨N1, N2, N0, N2, N2, N0, N1, N1, N0⟩ : Grid) P2 [M02, M12, M22] rfl rfl
    (collectScores_cons v122220110 (collectScores_cons t120222110 (collectScores_cons v120220112 collectScores_nil))) rfl

theorem t120222101 : readBoardAux P2 4 (⟨N1, N2, N0, N2, N2, N2, N1, N0, N1⟩ : Grid) P1 = some (ZP, none) :=
  rfl

theorem t120220121 : readBoardAux P2 4 (⟨N1, N2, N0, N2, N2, N0, N1, N2, N1⟩ : Grid) P1 = some (ZP, none) :=
  rfl

theorem v120220101 : readBoardAux P2 5 (⟨N1, N2, N0, N2, N2, N0, N1, N0, N1⟩ : Grid) P2 = some (ZP, some M12) :=
  readBoardAux_step P2 4 (⟨N1, N2, N0, N2, N2, N0, N1, N0, N1⟩ : Grid) P2 [M02, M12, M21] rfl rfl
    (collectScores_cons v122220101 (collectScores_cons t120222101 (collectScores_cons t120220121 collectScores_nil))) rfl

theorem v120220100 : readBoardAux P2 6 (⟨N1, N2, N0, N2, N2, N0, N1, N0, N0⟩ : Grid) P1 = some (ZP, some M02) :=
  readBoardAux_step P2 5 (⟨N1, N2, N0, N2, N2, N0, N1, N0, N0⟩ : Grid) P1 [M02, M12, M21, M22] rfl rfl
    (collectScores_cons v121220100 (collectScores_cons v120221100 (collectScores_cons v120220110 (collectScores_cons v120220101 collectScores_nil)))) rfl

theorem v120202112 : readBoardAux P2 4 (⟨N1, N2, N0, N2, N0, N2, N1, N1, N2⟩ : Grid) P1 = some (ZP, some M02) :=
  readBoardAux_step P2 3 (⟨N1, N2, N0, N2, N0, N2, N1, N1, N2⟩ : Grid) P1 [M02, M11] rfl rfl
    (collectScores_cons v121202112 (collectScores_cons v120212112 collectScores_nil)) rfl

theorem v120202110 : readBoardAux P2 5 (⟨N1, N2, N0, N2, N0, N2, N1, N1, N0⟩ : Grid) P2 = some (ZP, some M11) :=
  readBoardAux_step P2 4 (⟨N1, N2, N0, N2, N0, N2, N1, N1, N0⟩ : Grid) P2 [M02, M11, M22] rfl rfl
    (collectScores_cons v122202110 (collectScores_cons t120222110 (collectScores_cons v120202112 collectScores_nil))) rfl

theorem v120202121 : readBoardAux P2 4 (⟨N1, N2, N0, N2, N0, N2, N1, N2, N1⟩ : Grid) P1 = some (ZM, some M11) :=
  readBoardAux_step P2 3 (⟨N1, N2, N0, N2, N0, N2, N1, N2, N1⟩ : Grid) P1 [M02, M11] rfl rfl
    (collectScores_cons v121202121 (collectScores_cons t120212121 collectScores_nil)) rfl

theorem v120202101 : readBoardAux P2 5 (⟨N1, N2, N0, N2, N0, N2, N1, N0, N1⟩ : Grid) P2 = some (ZP, some M11) :=
  readBoardAux_step P2 4 (⟨N1, N2, N0, N2, N0, N2, N1, N0, N1⟩ : Grid) P2 [M02, M11, M21] rfl rfl
    (collectScores_cons v122202101 (collectScores_cons t120222101 (collectScores_cons v120202121 collectScores_nil))) rfl

theorem v120202100 : readBoardAux P2 6 (⟨N1, N2, N0, N2, N0, N2, N1, N0, N0⟩ : Grid) P1 = some (ZM, some M11) :=
  readBoardAux_step P2 5 (⟨N1, N2, N0, N2, N0, N2, N1, N0, N0⟩ : Grid) P1 [M02, M11, M21, M22] rfl rfl
    (collectScores_cons v121202100 (collectScores_cons v120212100 (collectScores_cons v120202110 (collectScores_cons v120202101 collectScores_nil)))) rfl

theorem v120200121 : readBoardAux P2 5 (⟨N1, N2, N0, N2, N0, N0, N1, N2, N1⟩ : Grid) P2 = some (ZP, some M11) :=
  readBoardAux_step P2 4 (⟨N1, N2, N0, N2, N0, N0, N1, N2, N1⟩ : Grid) P2 [M02, M11, M12] rfl rfl
    (collectScores_cons v122200121 (collectScores_cons t120220121 (collectScores_cons v120202121 collectScores_nil))) rfl

theorem v120200120 : readBoardAux P2 6 (⟨N1, N2, N0, N2, N0, N0, N1, N2, N0⟩ : Grid) P1 = some (ZM, some M11) :=
  readBoardAux_step P2 5 (⟨N1, N2, N0, N2, N0, N0, N1, N2, N0⟩ : Grid) P1 [M02, M11, M12, M22] rfl rfl
    (collectScores_cons v121200120 (collectScores_cons v120210120 (collectScores_cons v120201120 (collectScores_cons v120200121 collectScores_nil)))) rfl

theorem v120200112 : readBoardAux P2 5 (⟨N1, N2, N0, N2, N0, N0, N1, N1, N2⟩ : Grid) P2 = some (ZP, some M12) :=
  readBoardAux_step P2 4 (⟨N1, N2, N0, N2, N0, N0, N1, N1, N2⟩ : Grid) P2 [M02, M11, M12] rfl rfl
    (collectScores_cons v122200112 (collectScores_cons v120220112 (collectScores_cons v120202112 collectScores_nil))) rfl

theorem v120200102 : readBoardAux P2 6 (⟨N1, N2, N0, N2, N0, N0, N1, N0, N2⟩ : Grid) P1 = some (Z0, some M11) :=
  readBoardAux_step P2 5 (⟨N1, N2, N0, N2, N0, N0, N1, N0, N2⟩ : Grid) P1 [M02, M11, M12, M21] rfl rfl
    (collectScores_cons v121200102 (collectScores_cons v120210102 (collectScores_cons v120201102 (collectScores_cons v120200112 collectScores_nil)))) rfl

theorem v120200100 : readBoardAux P2 7 (⟨N1, N2, N0, N2, N0, N0, N1, N0, N0⟩ : Grid) P2 = some (ZP, some M11) :=
  readBoardAux_step P2 6 (⟨N1, N2, N0, N2, N0, N0, N1, N0, N0⟩ : Grid) P2 [M02, M11, M12, M21, M22] rfl rfl
    (collectScores_cons v122200100 (collectScores_cons v120220100 (collectScores_cons v120202100 (collectScores_cons v120200120 (collectScores_cons v120200102 collectScores_nil))))) rfl

theorem t120222011 : readBoardAux P2 4 (⟨N1, N2, N0, N2, N2, N2, N0, N1, N1⟩ : Grid) P1 = some (ZP, none) :=
  rfl

theorem v120220211 : readBoardAux P2 4 (⟨N1, N2, N0, N2, N2, N0, N2, N1, N1⟩ : Grid) P1 = some (ZP, some M02) :=
  readBoardAux_step P2 3 (⟨N1, N2, N0, N2, N2, N0, N2, N1, N1⟩ : Grid) P1 [M02, M12] rfl rfl
    (collectScores_cons v121220211 (collectScores_cons v120221211 collectScores_nil)) rfl

theorem v120220011 : readBoardAux P2 5 (⟨N1, N2, N0, N2, N2, N0, N0, N1, N1⟩ : Grid) P2 = some (ZP, some M12) :=
  readBoardAux_step P2 4 (⟨N1, N2, N0, N2, N2, N0, N0, N1, N1⟩ : Grid) P2 [M02, M12, M20] rfl rfl
    (collectScores_cons v122220011 (collectScores_cons t120222011 (collectScores_cons v120220211 collectScores_nil))) rfl

theorem v120220010 : readBoardAux P2 6 (⟨N1, N2, N0, N2, N2, N0, N0, N1, N0⟩ : Grid) P1 = some (Z0, some M12) :=
  readBoardAux_step P2 5 (⟨N1, N2, N0, N2, N2, N0, N0, N1, N0⟩ : Grid) P1 [M02, M12, M20, M22] rfl rfl
    (collectScores_cons v121220010 (collectScores_cons v120221010 (collectScores_cons v120220110 (collectScores_cons v120220011 collectScores_nil)))) rfl

theorem v120202211 : readBoardAux P2 4 (⟨N1, N2, N0, N2, N0, N2, N2, N1, N1⟩ : Grid) P1 = some (ZM, some M11) :=
  readBoardAux_step P2 3 (⟨N1, N2, N0, N2, N0, N2, N2, N1, N1⟩ : Grid) P1 [M02, M11] rfl rfl
    (collectScores_cons v121202211 (collectScores_cons t120212211 collectScores_nil)) rfl

theorem v120202011 : readBoardAux P2 5 (⟨N1, N2, N0, N2, N0, N2, N0, N1, N1⟩ : Grid) P2 = some (ZP, some M11) :=
  readBoardAux_step P2 4 (⟨N1, N2, N0, N2, N0, N2, N0, N1, N1⟩ : Grid) P2 [M02, M11, M20] rfl rfl
    (collectScores_cons v122202011 (collectScores_cons t120222011 (collectScores_cons v120202211 collectScores_nil))) rfl

theorem v120202010 : readBoardAux P2 6 (⟨N1, N2, N0, N2, N0, N2, N0, N1, N0⟩ : Grid) P1 = some (Z0, some M11) :=
  readBoardAux_step P2 5 (⟨N1, N2, N0, N2, N0, N2, N0, N1, N0⟩ : Grid) P1 [M02, M11, M20, M22] rfl rfl
    (collectScores_cons v121202010 (collectScores_cons v120212010 (collectScores_cons v120202110 (collectScores_cons v120202011 collectScores_nil)))) rfl

theorem v120200211 : readBoardAux P2 5 (⟨N1, N2, N0, N2, N0, N0, N2, N1, N1⟩ : Grid) P2 = some (ZP, some M11) :=
  readBoardAux_step P2 4 (⟨N1, N2, N0, N2, N0, N0, N2, N1, N1⟩ : Grid) P2 [M02, M11, M12] rfl rfl
    (collectScores_cons v122200211 (collectScores_cons v120220211 (collectScores_cons v120202211 collectScores_nil))) rfl

theorem v120200210 : readBoardAux P2 6 (⟨N1, N2, N0, N2, N0, N0, N2, N1, N0⟩ : Grid) P1 = some (Z0, some M02) :=
  readBoardAux_step P2 5 (⟨N1, N2, N0, N2, N0, N0, N2, N1, N0⟩ : Grid) P1 [M02, M11, M12, M22] rfl rfl
    (collectScores_cons v121200210 (collectScores_cons v120210210 (collectScores_cons v120201210 (collectScores_cons v120200211 collectScores_nil)))) rfl

theorem v120200012 : readBoardAux P2 6 (⟨N1, N2, N0, N2, N0, N0, N0, N1, N2⟩ : Grid) P1 = some (Z0, some M02) :=
  readBoardAux_step P2 5 (⟨N1, N2, N0, N2, N0, N0, N0, N1, N2⟩ : Grid) P1 [M02, M11, M12, M20] rfl rfl
    (collectScores_cons v121200012 (collectScores_cons v120210012 (collectScores_cons v120201012 (collectScores_cons v120200112 collectScores_nil)))) rfl

theorem v120200010 : readBoardAux P2 7 (⟨N1, N2, N0, N2, N0, N0, N0, N1, N0⟩ : Grid) P2 = some (Z0, some M11) :=
  readBoardAux_step P2 6 (⟨N1, N2, N0, N2, N0, N0, N0, N1, N0⟩ : Grid) P2 [M02, M11, M12, M20, M22] rfl rfl
    (collectScores_cons v122200010 (collectScores_cons v120220010 (collectScores_cons v120202010 (collectScores_cons v120200210 (collectScores_cons v120200012 collectScores_nil))))) rfl

theorem v120220001 : readBoardAux P2 6 (⟨N1, N2, N0, N2, N2, N0, N0, N0, N1⟩ : Grid) P1 = some (ZP, some M02) :=
  readBoardAux_step P2 5 (⟨N1, N2, N0, N2, N2, N0, N0, N0, N1⟩ : Grid) P1 [M02, M12, M20, M21] rfl rfl
    (collectScores_cons v121220001 (collectScores_cons v120221001 (collectScores_cons v120220101 (collectScores_cons v120220011 collectScores_nil)))) rfl

theorem v120202001 : readBoardAux P2 6 (⟨N1, N2, N0, N2, N0, N2, N0, N0, N1⟩ : Grid) P1 = some (ZM, some M11) :=
  readBoardAux_step P2 5 (⟨N1, N2, N0, N2, N0, N2, N0, N0, N1⟩ : Grid) P1 [M02, M11, M20, M21] rfl rfl
    (collectScores_cons v121202001 (collectScores_cons t120212001 (collectScores_cons v120202101 (collectScores_cons v120202011 collectScores_nil)))) rfl

theorem v120200201 : readBoardAux P2 6 (⟨N1, N2, N0, N2, N0, N0, N2, N0, N1⟩ : Grid) P1 = some (ZM, some M02) :=
  readBoardAux_step P2 5 (⟨N1, N2, N0, N2, N0, N0, N2, N0, N1⟩ : Grid) P1 [M02, M11, M12, M21] rfl rfl
    (collectScores_cons v121200201 (collectScores_cons t120210201 (collectScores_cons v120201201 (collectScores_cons v120200211 collectScores_nil)))) rfl

theorem v120200021 : readBoardAux P2 6 (⟨N1, N2, N0, N2, N0, N0, N0, N2, N1⟩ : Grid) P1 = some (ZM, some M11) :=
  readBoardAux_step P2 5 (⟨N1, N2, N0, N2, N0, N0, N0, N2, N1⟩ : Grid) P1 [M02, M11, M12, M20] rfl rfl
    (collectScores_cons v121200021 (collectScores_cons t120210021 (collectScores_cons v120201021 (collectScores_cons v120200121 collectScores_nil)))) rfl

theorem v120200001 : readBoardAux P2 7 (⟨N1, N2, N0, N2, N0, N0, N0, N0, N1⟩ : Grid) P2 = some (ZP, some M11) :=
  readBoardAux_step P2 6 (⟨N1, N2, N0, N2, N0, N0, N0, N0, N1⟩ : Grid) P2 [M02, M11, M12, M20, M21] rfl rfl
    (collectScores_cons v122200001 (collectScores_cons v120220001 (collectScores_cons v120202001 (collectScores_cons v120200201 (collectScores_cons v120200021 collectScores_nil))))) rfl

theorem v120200000 : readBoardAux P2 8 (⟨N1, N2, N0, N2, N0, N0, N0, N0, N0⟩ : Grid) P1 = some (Z0, some M11) :=
  readBoardAux_step P2 7 (⟨N1, N2, N0, N2, N0, N0, N0, N0, N0⟩ : Grid) P1 [M02, M11, M12, M20, M21, M22] rfl rfl
    (collectScores_cons v121200000 (collectScores_cons v120210000 (collectScores_cons v120201000 (collectScores_cons v120200100 (collectScores_cons v120200010 (collectScores_cons v120200001 collectScores_nil)))))) rfl

theorem t121122212 : readBoardAux P2 2 (⟨N1, N2, N1, N1, N2, N2, N2, N1, N2⟩ : Grid) P1 = some (Z0, none) :=
  rfl

theorem v121122210 : readBoardAux P2 3 (⟨N1, N2, N1, N1, N2, N2, N2, N1, N0⟩ : Grid) P2 = some (Z0, some M22) :=
  readBoardAux_step P2 2 (⟨N1, N2, N1, N1, N2, N2, N2, N1, N0⟩ : Grid) P2 [M22] rfl rfl
    (collectScores_cons t121122212 collectScores_nil) rfl

theorem t121122221 : readBoardAux P2 2 (⟨N1, N2, N1, N1, N2, N2, N2, N2, N1⟩ : Grid) P1 = some (ZP, none) :=
  rfl

theorem v121122201 : readBoardAux P2 3 (⟨N1, N2, N1, N1, N2, N2, N2, N0, N1⟩ : Grid) P2 = some (ZP, some M21) :=
  readBoardAux_step P2 2 (⟨N1, N2, N1, N1, N2, N2, N2, N0, N1⟩ : Grid) P2 [M21] rfl rfl
    (collectScores_cons t121122221 collectScores_nil) rfl

theorem v121122200 : readBoardAux P2 4 (⟨N1, N2, N1, N1, N2, N2, N2, N0, N0⟩ : Grid) P1 = some (Z0, some M21) :=
  readBoardAux_step P2 3 (⟨N1, N2, N1, N1, N2, N2, N2, N0, N0⟩ : Grid) P1 [M21, M22] rfl rfl
    (collectScores_cons v121122210 (collectScores_cons v121122201 collectScores_nil)) rfl

theorem t121122020 : readBoardAux P2 4 (⟨N1, N2, N1, N1, N2, N2, N0, N2, N0⟩ : Grid) P1 = some (ZP, none) :=
  rfl

theorem t121122102 : readBoardAux P2 3 (⟨N1, N2, N1, N1, N2, N2, N1, N0, N2⟩ : Grid) P2 = some (ZM, none) :=
  rfl

theorem v121122012 : readBoardAux P2 3 (⟨N1, N2, N1, N1, N2, N2, N0, N1, N2⟩ : Grid) P2 = some (Z0, some M20) :=
  readBoardAux_step P2 2 (⟨N1, N2, N1, N1, N2, N2, N0, N1, N2⟩ : Grid) P2 [M20] rfl rfl
    (collectScores_cons t121122212 collectScores_nil) rfl

theorem v121122002 : readBoardAux P2 4 (⟨N1, N2, N1, N1, N2, N2, N0, N0, N2⟩ : Grid) P1 = some (ZM, some M20) :=
  readBoardAux_step P2 3 (⟨N1, N2, N1, N1, N2, N2, N0, N0, N2⟩ : Grid) P1 [M20, M21] rfl rfl
    (collectScores_cons t121122102 (collectScores_cons v121122012 collectScores_nil)) rfl

theorem v121122000 : readBoardAux P2 5 (⟨N1, N2, N1, N1, N2, N2, N0, N0, N0⟩ : Grid) P2 = some (ZP, some M21) :=
  readBoardAux_step P2 4 (⟨N1, N2, N1, N1, N2, N2, N0, N0, N0⟩ : Grid) P2 [M20, M21, M22] rfl rfl
    (collectScores_cons v121122200 (collectScores_cons t121122020 (collectScores_cons v121122002 collectScores_nil))) rfl

theorem t121022120 : readBoardAux P2 4 (⟨N1, N2, N1, N0, N2, N2, N1, N2, N0⟩ : Grid) P1 = some (ZP, none) :=
  rfl

theorem v121022112 : readBoardAux P2 3 (⟨N1, N2, N1, N0, N2, N2, N1, N1, N2⟩ : Grid) P2 = some (ZP, some M10) :=
  readBoardAux_step P2 2 (⟨N1, N2, N1, N0, N2, N2, N1, N1, N2⟩ : Grid) P2 [M10] rfl rfl
    (collectScores_cons t121222112 collectScores_nil) rfl

theorem v121022102 : readBoardAux P2 4 (⟨N1, N2, N1, N0, N2, N2, N1, N0, N2⟩ : Grid) P1 = some (ZM, some M10) :=
  readBoardAux_step P2 3 (⟨N1, N2, N1, N0, N2, N2, N1, N0, N2⟩ : Grid) P1 [M10, M21] rfl rfl
    (collectScores_cons t121122102 (collectScores_cons v121022112 collectScores_nil)) rfl

theorem v121022100 : readBoardAux P2 5 (⟨N1, N2, N1, N0, N2, N2, N1, N0, N0⟩ : Grid) P2 = some (ZP, some M10) :=
  readBoardAux_step P2 4 (⟨N1, N2, N1, N0, N2, N2, N1, N0, N0⟩ : Grid) P2 [M10, M21, M22] rfl rfl
    (collectScores_cons t121222100 (collectScores_cons t121022120 (collectScores_cons v121022102 collectScores_nil))) rfl

theorem v121022211 : readBoardAux P2 3 (⟨N1, N2, N1, N0, N2, N2, N2, N1, N1⟩ : Grid) P2 = some (ZP, some M10) :=
  readBoardAux_step P2 2 (⟨N1, N2, N1, N0, N2, N2, N2, N1, N1⟩ : Grid) P2 [M10] rfl rfl
    (collectScores_cons t121222211 collectScores_nil) rfl

theorem v121022210 : readBoardAux P2 4 (⟨N1, N2, N1, N0, N2, N2, N2, N1, N0⟩ : Grid) P1 = some (Z0, some M10) :=
  readBoardAux_step P2 3 (⟨N1, N2, N1, N0, N2, N2, N2, N1, N0⟩ : Grid) P1 [M10, M22] rfl rfl
    (collectScores_cons v121122210 (collectScores_cons v121022211 collectScores_nil)) rfl

theorem v121022012 : readBoardAux P2 4 (⟨N1, N2, N1, N0, N2, N2, N0, N1, N2⟩ : Grid) P1 = some (Z0, some M10) :=
  readBoardAux_step P2 3 (⟨N1, N2, N1, N0, N2, N2, N0, N1, N2⟩ : Grid) P1 [M10, M20] rfl rfl
    (collectScores_cons v121122012 (collectScores_cons v121022112 collectScores_nil)) rfl

theorem v121022010 : readBoardAux P2 5 (⟨N1, N2, N1, N0, N2, N2, N0, N1, N0⟩ : Grid) P2 = some (ZP, some M10) :=
  readBoardAux_step P2 4 (⟨N1, N2, N1, N0, N2, N2, N0, N1, N0⟩ : Grid) P2 [M10, M20, M22] rfl rfl
    (collectScores_cons t121222010 (collectScores_cons v121022210 (collectScores_cons v121022012 collectScores_nil))) rfl

theorem v121022201 : readBoardAux P2 4 (⟨N1, N2, N1, N0, N2, N2, N2, N0, N1⟩ : Grid) P1 = some (ZP, some M10) :=
  readBoardAux_step P2 3 (⟨N1, N2, N1, N0, N2, N2, N2, N0, N1⟩ : Grid) P1 [M10, M21] rfl rfl
    (collectScores_cons v121122201 (collectScores_cons v121022211 collectScores_nil)) rfl

theorem t121022021 : readBoardAux P2 4 (⟨N1, N2, N1, N0, N2, N2, N0, N2, N1⟩ : Grid) P1 = some (ZP, none) :=
  rfl

theorem v121022001 : readBoardAux P2 5 (⟨N1, N2, N1, N0, N2, N2, N0, N0, N1⟩ : Grid) P2 = some (ZP, some M10) :=
  readBoardAux_step P2 4 (⟨N1, N2, N1, N0, N2, N2, N0, N0, N1⟩ : Grid) P2 [M10, M20, M21] rfl rfl
    (collectScores_cons t121222001 (collectScores_cons v121022201 (collectScores_cons t121022021 collectScores_nil))) rfl

theorem v121022000 : readBoardAux P2 6 (⟨N1, N2, N1, N0, N2, N2, N0, N0, N0⟩ : Grid) P1 = some (ZP, some M10) :=
  readBoardAux_step P2 5 (⟨N1, N2, N1, N0, N2, N2, N0, N0, N0⟩ : Grid) P1 [M10, M20, M21, M22] rfl rfl
    (collectScores_cons v121122000 (collectScores_cons v121022100 (collectScores_cons v121022010 (collectScores_cons v121022001 collectScores_nil)))) rfl

theorem t121120220 : readBoardAux P2 4 (⟨N1, N2, N1, N1, N2, N0, N2, N2, N0⟩ : Grid) P1 = some (ZP, none) :=
  rfl

theorem t121121222 : readBoardAux P2 2 (⟨N1, N2, N1, N1, N2, N1, N2, N2, N2⟩ : Grid) P1 = some (ZP, none) :=
  rfl

theorem v121121202 : readBoardAux P2 3 (⟨N1, N2, N1, N1, N2, N1, N2, N0, N2⟩ : Grid) P2 = some (ZP, some M21) :=
  readBoardAux_step P2 2 (⟨N1, N2, N1, N1, N2, N1, N2, N0, N2⟩ : Grid) P2 [M21] rfl rfl
    (collectScores_cons t121121222 collectScores_nil) rfl

theorem v121120212 : readBoardAux P2 3 (⟨N1, N2, N1, N1, N2, N0, N2, N1, N2⟩ : Grid) P2 = some (Z0, some M12) :=
  readBoardAux_step P2 2 (⟨N1, N2, N1, N1, N2, N0, N2, N1, N2⟩ : Grid) P2 [M12] rfl rfl
    (collectScores_cons t121122212 collectScores_nil) rfl

theorem v121120202 : readBoardAux P2 4 (⟨N1, N2, N1, N1, N2, N0, N2, N0, N2⟩ : Grid) P1 = some (Z0, some M21) :=
  readBoardAux_step P2 3 (⟨N1, N2, N1, N1, N2, N0, N2, N0, N2⟩ : Grid) P1 [M12, M21] rfl rfl
    (collectScores_cons v121121202 (collectScores_cons v121120212 collectScores_nil)) rfl

theorem v121120200 : readBoardAux P2 5 (⟨N1, N2, N1, N1, N2, N0, N2, N0, N0⟩ : Grid) P2 = some (ZP, some M21) :=
  readBoardAux_step P2 4 (⟨N1, N2, N1, N1, N2, N0, N2, N0, N0⟩ : Grid) P2 [M12, M21, M22] rfl rfl
    (collectScores_cons v121122200 (collectScores_cons t121120220 (collectScores_cons v121120202 collectScores_nil))) rfl

theorem t121021220 : readBoardAux P2 4 (⟨N1, N2, N1, N0, N2, N1, N2, N2, N0⟩ : Grid) P1 = some (ZP, none) :=
  rfl

theorem v121021212 : readBoardAux P2 3 (⟨N1, N2, N1, N0, N2, N1, N2, N1, N2⟩ : Grid) P2 = some (Z0, some M10) :=
  readBoardAux_step P2 2 (⟨N1, N2, N1, N0, N2, N1, N2, N1, N2⟩ : Grid) P2 [M10] rfl rfl
    (collectScores_cons t121221212 collectScores_nil) rfl

theorem v121021202 : readBoardAux P2 4 (⟨N1, N2, N1, N0, N2, N1, N2, N0, N2⟩ : Grid) P1 = some (Z0, some M21) :=
  readBoardAux_step P2 3 (⟨N1, N2, N1, N0, N2, N1, N2, N0, N2⟩ : Grid) P1 [M10, M21] rfl rfl
    (collectScores_cons v121121202 (collectScores_cons v121021212 collectScores_nil)) rfl

theorem v121021200 : readBoardAux P2 5 (⟨N1, N2, N1, N0, N2, N1, N2, N0, N0⟩ : Grid) P2 = some (ZP, some M21) :=
  readBoardAux_step P2 4 (⟨N1, N2, N1, N0, N2, N1, N2, N0, N0⟩ : Grid) P2 [M10, M21, M22] rfl rfl
    (collectScores_cons v121221200 (collectScores_cons t121021220 (collectScores_cons v121021202 collectScores_nil))) rfl

theorem v121020212 : readBoardAux P2 4 (⟨N1, N2, N1, N0, N2, N0, N2, N1, N2⟩ : Grid) P1 = some (Z0, some M10) :=
  readBoardAux_step P2 3 (⟨N1, N2, N1, N0, N2, N0, N2, N1, N2⟩ : Grid) P1 [M10, M12] rfl rfl
    (collectScores_cons v121120212 (collectScores_cons v121021212 collectScores_nil)) rfl

theorem v121020210 : readBoardAux P2 5 (⟨N1, N2, N1, N0, N2, N0, N2, N1, N0⟩ : Grid) P2 = some (Z0, some M10) :=
  readBoardAux_step P2 4 (⟨N1, N2, N1, N0, N2, N0, N2, N1, N0⟩ : Grid) P2 [M10, M12, M22] rfl rfl
    (collectScores_cons v121220210 (collectScores_cons v121022210 (collectScores_cons v121020212 collectScores_nil))) rfl

theorem t121020221 : readBoardAux P2 4 (⟨N1, N2, N1, N0, N2, N0, N2, N2, N1⟩ : Grid) P1 = some (ZP, none) :=
  rfl

theorem v121020201 : readBoardAux P2 5 (⟨N1, N2, N1, N0, N2, N0, N2, N0, N1⟩ : Grid) P2 = some (ZP, some M12) :=
  readBoardAux_step P2 4 (⟨N1, N2, N1, N0, N2, N0, N2, N0, N1⟩ : Grid) P2 [M10, M12, M21] rfl rfl
    (collectScores_cons v121220201 (collectScores_cons v121022201 (collectScores_cons t121020221 collectScores_nil))) rfl

theorem v121020200 : readBoardAux P2 6 (⟨N1, N2, N1, N0, N2, N0, N2, N0, N0⟩ : Grid) P1 = some (Z0, some M21) :=
  readBoardAux_step P2 5 (⟨N1, N2, N1, N0, N2, N0, N2, N0, N0⟩ : Grid) P1 [M10, M12, M21, M22] rfl rfl
    (collectScores_cons v121120200 (collectScores_cons v121021200 (collectScores_cons v121020210 (collectScores_cons v121020201 collectScores_nil)))) rfl

theorem t121020020 : readBoardAux P2 6 (⟨N1, N2, N1, N0, N2, N0, N0, N2, N0⟩ : Grid) P1 = some (ZP, none) :=
  rfl

theorem t121120022 : readBoardAux P2 4 (⟨N1, N2, N1, N1, N2, N0, N0, N2, N2⟩ : Grid) P1 = some (ZP, none) :=
  rfl

theorem v121120002 : readBoardAux P2 5 (⟨N1, N2, N1, N1, N2, N0, N0, N0, N2⟩ : Grid) P2 = some (ZP, some M21) :=
  readBoardAux_step P2 4 (⟨N1, N2, N1, N1, N2, N0, N0, N0, N2⟩ : Grid) P2 [M12, M20, M21] rfl rfl
    (collectScores_cons v121122002 (collectScores_cons v121120202 (collectScores_cons t121120022 collectScores_nil))) rfl

theorem t121021022 : readBoardAux P2 4 (⟨N1, N2, N1, N0, N2, N1, N0, N2, N2⟩ : Grid) P1 = some (ZP, none) :=
  rfl

theorem v121021002 : readBoardAux P2 5 (⟨N1, N2, N1, N0, N2, N1, N0, N0, N2⟩ : Grid) P2 = some (ZP, some M21) :=
  readBoardAux_step P2 4 (⟨N1, N2, N1, N0, N2, N1, N0, N0, N2⟩ : Grid) P2 [M10, M20, M21] rfl rfl
    (collectScores_cons v121221002 (collectScores_cons v121021202 (collectScores_cons t121021022 collectScores_nil))) rfl

theorem t121020122 : readBoardAux P2 4 (⟨N1, N2, N1, N0, N2, N0, N1, N2, N2⟩ : Grid) P1 = some (ZP, none) :=
  rfl

theorem v121020102 : readBoardAux P2 5 (⟨N1, N2, N1, N0, N2, N0, N1, N0, N2⟩ : Grid) P2 = some (ZP, some M10) :=
  readBoardAux_step P2 4 (⟨N1, N2, N1, N0, N2, N0, N1, N0, N2⟩ : Grid) P2 [M10, M12, M21] rfl rfl
    (collectScores_cons v121220102 (collectScores_cons v121022102 (collectScores_cons t121020122 collectScores_nil))) rfl

theorem v121020012 : readBoardAux P2 5 (⟨N1, N2, N1, N0, N2, N0, N0, N1, N2⟩ : Grid) P2 = some (Z0, some M10) :=
  readBoardAux_step P2 4 (⟨N1, N2, N1, N0, N2, N0, N0, N1, N2⟩ : Grid) P2 [M10, M12, M20] rfl rfl
    (collectScores_cons v121220012 (collectScores_cons v121022012 (collectScores_cons v121020212 collectScores_nil))) rfl

theorem v121020002 : readBoardAux P2 6 (⟨N1, N2, N1, N0, N2, N0, N0, N0, N2⟩ : Grid) P1 = some (Z0, some M21) :=
  readBoardAux_step P2 5 (⟨N1, N2, N1, N0, N2, N0, N0, N0, N2⟩ : Grid) P1 [M10, M12, M20, M21] rfl rfl
    (collectScores_cons v121120002 (collectScores_cons v121021002 (collectScores_cons v121020102 (collectScores_cons v121020012 collectScores_nil)))) rfl

theorem v121020000 : readBoardAux P2 7 (⟨N1, N2, N1, N0, N2, N0, N0, N0, N0⟩ : Grid) P2 = some (ZP, some M10) :=
  readBoardAux_step P2 6 (⟨N1, N2, N1, N0, N2, N0, N0, N0, N0⟩ : Grid) P2 [M10, M12, M20, M21, M22] rfl rfl
    (collectScores_cons v121220000 (collectScores_cons v121022000 (collectScores_cons v121020200 (collectScores_cons t121020020 (collectScores_cons v121020002 collectScores_nil))))) rfl

theorem t120122100 : readBoardAux P2 5 (⟨N1, N2, N0, N1, N2, N2, N1, N0, N0⟩ : Grid) P2 = some (ZM, none) :=
  rfl

theorem v120122211 : readBoardAux P2 3 (⟨N1, N2, N0, N1, N2, N2, N2, N1, N1⟩ : Grid) P2 = some (ZP, some M02) :=
  readBoardAux_step P2 2 (⟨N1, N2, N0, N1, N2, N2, N2, N1, N1⟩ : Grid) P2 [M02] rfl rfl
    (collectScores_cons t122122211 collectScores_nil) rfl

theorem v120122210 : readBoardAux P2 4 (⟨N1, N2, N0, N1, N2, N2, N2, N1, N0⟩ : Grid) P1 = some (Z0, some M02) :=
  readBoardAux_step P2 3 (⟨N1, N2, N0, N1, N2, N2, N2, N1, N0⟩ : Grid) P1 [M02, M22] rfl rfl
    (collectScores_cons v121122210 (collectScores_cons v120122211 collectScores_nil)) rfl

theorem t120122112 : readBoardAux P2 3 (⟨N1, N2, N0, N1, N2, N2, N1, N1, N2⟩ : Grid) P2 = some (ZM, none) :=
  rfl

theorem v120122012 : readBoardAux P2 4 (⟨N1, N2, N0, N1, N2, N2, N0, N1, N2⟩ : Grid) P1 = some (ZM, some M20) :=
  readBoardAux_step P2 3 (⟨N1, N2, N0, N1, N2, N2, N0, N1, N2⟩ : Grid) P1 [M02, M20] rfl rfl
    (collectScores_cons v121122012 (collectScores_cons t120122112 collectScores_nil)) rfl

theorem v120122010 : readBoardAux P2 5 (⟨N1, N2, N0, N1, N2, N2, N0, N1, N0⟩ : Grid) P2 = some (Z0, some M20) :=
  readBoardAux_step P2 4 (⟨N1, N2, N0, N1, N2, N2, N0, N1, N0⟩ : Grid) P2 [M02, M20, M22] rfl rfl
    (collectScores_cons v122122010 (collectScores_cons v120122210 (collectScores_cons v120122012 collectScores_nil))) rfl

theorem v120122201 : readBoardAux P2 4 (⟨N1, N2, N0, N1, N2, N2, N2, N0, N1⟩ : Grid) P1 = some (ZP, some M02) :=
  readBoardAux_step P2 3 (⟨N1, N2, N0, N1, N2, N2, N2, N0, N1⟩ : Grid) P1 [M02, M21] rfl rfl
    (collectScores_cons v121122201 (collectScores_cons v120122211 collectScores_nil)) rfl

theorem t120122021 : readBoardAux P2 4 (⟨N1, N2, N0, N1, N2, N2, N0, N2, N1⟩ : Grid) P1 = some (ZP, none) :=
  rfl

theorem v120122001 : readBoardAux P2 5 (⟨N1, N2, N0, N1, N2, N2, N0, N0, N1⟩ : Grid) P2 = some (ZP, some M20) :=
  readBoardAux_step P2 4 (⟨N1, N2, N0, N1, N2, N2, N0, N0, N1⟩ : Grid) P2 [M02, M20, M21] rfl rfl
    (collectScores_cons v122122001 (collectScores_cons v120122201 (collectScores_cons t120122021 collectScores_nil))) rfl

theorem v120122000 : readBoardAux P2 6 (⟨N1, N2, N0, N1, N2, N2, N0, N0, N0⟩ : Grid) P1 = some (ZM, some M20) :=
  readBoardAux_step P2 5 (⟨N1, N2, N0, N1, N2, N2, N0, N0, N0⟩ : Grid) P1 [M02, M20, M21, M22] rfl rfl
    (collectScores_cons v121122000 (collectScores_cons t120122100 (collectScores_cons v120122010 (collectScores_cons v120122001 collectScores_nil)))) rfl

theorem t120121220 : readBoardAux P2 4 (⟨N1, N2, N0, N1, N2, N1, N2, N2, N0⟩ : Grid) P1 = some (ZP, none) :=
  rfl

theorem v120121212 : readBoardAux P2 3 (⟨N1, N2, N0, N1, N2, N1, N2, N1, N2⟩ : Grid) P2 = some (ZP, some M02) :=
  readBoardAux_step P2 2 (⟨N1, N2, N0, N1, N2, N1, N2, N1, N2⟩ : Grid) P2 [M02] rfl rfl
    (collectScores_cons t122121212 collectScores_nil) rfl

theorem v120121202 : readBoardAux P2 4 (⟨N1, N2, N0, N1, N2, N1, N2, N0, N2⟩ : Grid) P1 = some (ZP, some M02) :=
  readBoardAux_step P2 3 (⟨N1, N2, N0, N1, N2, N1, N2, N0, N2⟩ : Grid) P1 [M02, M21] rfl rfl
    (collectScores_cons v121121202 (collectScores_cons v120121212 collectScores_nil)) rfl

theorem v120121200 : readBoardAux P2 5 (⟨N1, N2, N0, N1, N2, N1, N2, N0, N0⟩ : Grid) P2 = some (ZP, some M02) :=
  readBoardAux_step P2 4 (⟨N1, N2, N0, N1, N2, N1, N2, N0, N0⟩ : Grid) P2 [M02, M21, M22] rfl rfl
    (collectScores_cons t122121200 (collectScores_cons t120121220 (collectScores_cons v120121202 collectScores_nil))) rfl

theorem v120120212 : readBoardAux P2 4 (⟨N1, N2, N0, N1, N2, N0, N2, N1, N2⟩ : Grid) P1 = some (Z0, some M02) :=
  readBoardAux_step P2 3 (⟨N1, N2, N0, N1, N2, N0, N2, N1, N2⟩ : Grid) P1 [M02, M12] rfl rfl
    (collectScores_cons v121120212 (collectScores_cons v120121212 collectScores_nil)) rfl

theorem v120120210 : readBoardAux P2 5 (⟨N1, N2, N0, N1, N2, N0, N2, N1, N0⟩ : Grid) P2 = some (ZP, some M02) :=
  readBoardAux_step P2 4 (⟨N1, N2, N0, N1, N2, N0, N2, N1, N0⟩ : Grid) P2 [M02, M12, M22] rfl rfl
    (collectScores_cons t122120210 (collectScores_cons v120122210 (collectScores_cons v120120212 collectScores_nil))) rfl

theorem t120120221 : readBoardAux P2 4 (⟨N1, N2, N0, N1, N2, N0, N2, N2, N1⟩ : Grid) P1 = some (ZP, none) :=
  rfl

theorem v120120201 : readBoardAux P2 5 (⟨N1, N2, N0, N1, N2, N0, N2, N0, N1⟩ : Grid) P2 = some (ZP, some M02) :=
  readBoardAux_step P2 4 (⟨N1, N2, N0, N1, N2, N0, N2, N0, N1⟩ : Grid) P2 [M02, M12, M21] rfl rfl
    (collectScores_cons t122120201 (collectScores_cons v120122201 (collectScores_cons t120120221 collectScores_nil))) rfl

theorem v120120200 : readBoardAux P2 6 (⟨N1, N2, N0, N1, N2, N0, N2, N0, N0⟩ : Grid) P1 = some (ZP, some M02) :=
  readBoardAux_step P2 5 (⟨N1, N2, N0, N1, N2, N0, N2, N0, N0⟩ : Grid) P1 [M02, M12, M21, M22] rfl rfl
    (collectScores_cons v121120200 (collectScores_cons v120121200 (collectScores_cons v120120210 (collectScores_cons v120120201 collectScores_nil)))) rfl

theorem t120120020 : readBoardAux P2 6 (⟨N1, N2, N0, N1, N2, N0, N0, N2, N0⟩ : Grid) P1 = some (ZP, none) :=
  rfl

theorem t120121022 : readBoardAux P2 4 (⟨N1, N2, N0, N1, N2, N1, N0, N2, N2⟩ : Grid) P1 = some (ZP, none) :=
  rfl

theorem v120121002 : readBoardAux P2 5 (⟨N1, N2, N0, N1, N2, N1, N0, N0, N2⟩ : Grid) P2 = some (ZP, some M20) :=
  readBoardAux_step P2 4 (⟨N1, N2, N0, N1, N2, N1, N0, N0, N2⟩ : Grid) P2 [M02, M20, M21] rfl rfl
    (collectScores_cons v122121002 (collectScores_cons v120121202 (collectScores_cons t120121022 collectScores_nil))) rfl

theorem t120120102 : readBoardAux P2 5 (⟨N1, N2, N0, N1, N2, N0, N1, N0, N2⟩ : Grid) P2 = some (ZM, none) :=
  rfl

theorem v120120012 : readBoardAux P2 5 (⟨N1, N2, N0, N1, N2, N0, N0, N1, N2⟩ : Grid) P2 = some (Z0, some M20) :=
  readBoardAux_step P2 4 (⟨N1, N2, N0, N1, N2, N0, N0, N1, N2⟩ : Grid) P2 [M02, M12, M20] rfl rfl
    (collectScores_cons v122120012 (collectScores_cons v120122012 (collectScores_cons v120120212 collectScores_nil))) rfl

theorem v120120002 : readBoardAux P2 6 (⟨N1, N2, N0, N1, N2, N0, N0, N0, N2⟩ : Grid) P1 = some (ZM, some M20) :=
  readBoardAux_step P2 5 (⟨N1, N2, N0, N1, N2, N0, N0, N0, N2⟩ : Grid) P1 [M02, M12, M20, M21] rfl rfl
    (collectScores_cons v121120002 (collectScores_cons v120121002 (collectScores_cons t120120102 (collectScores_cons v120120012 collectScores_nil)))) rfl

theorem v120120000 : readBoardAux P2 7 (⟨N1, N2, N0, N1, N2, N0, N0, N0, N0⟩ : Grid) P2 = some (ZP, some M20) :=
  readBoardAux_step P2 6 (⟨N1, N2, N0, N1, N2, N0, N0, N0, N0⟩ : Grid) P2 [M02, M12, M20, M21, M22] rfl rfl
    (collectScores_cons v122120000 (collectScores_cons v120122000 (collectScores_cons v120120200 (collectScores_cons t120120020 (collectScores_cons v120120002 collectScores_nil))))) rfl

theorem v120021212 : readBoardAux P2 4 (⟨N1, N2, N0, N0, N2, N1, N2, N1, N2⟩ : Grid) P1 = some (Z0, some M02) :=
  readBoardAux_step P2 3 (⟨N1, N2, N0, N0, N2, N1, N2, N1, N2⟩ : Grid) P1 [M02, M10] rfl rfl
    (collectScores_cons v121021212 (collectScores_cons v120121212 collectScores_nil)) rfl

theorem v120021210 : readBoardAux P2 5 (⟨N1, N2, N0, N0, N2, N1, N2, N1, N0⟩ : Grid) P2 = some (ZP, some M02) :=
  readBoardAux_step P2 4 (⟨N1, N2, N0, N0, N2, N1, N2, N1, N0⟩ : Grid) P2 [M02, M10, M22] rfl rfl
    (collectScores_cons t122021210 (collectScores_cons v120221210 (collectScores_cons v120021212 collectScores_nil))) rfl

theorem t120021221 : readBoardAux P2 4 (⟨N1, N2, N0, N0, N2, N1, N2, N2, N1⟩ : Grid) P1 = some (ZP, none) :=
  rfl

theorem v120021201 : readBoardAux P2 5 (⟨N1, N2, N0, N0, N2, N1, N2, N0, N1⟩ : Grid) P2 = some (ZP, some M02) :=
  readBoardAux_step P2 4 (⟨N1, N2, N0, N0, N2, N1, N2, N0, N1⟩ : Grid) P2 [M02, M10, M21] rfl rfl
    (collectScores_cons t122021201 (collectScores_cons v120221201 (collectScores_cons t120021221 collectScores_nil))) rfl

theorem v120021200 : readBoardAux P2 6 (⟨N1, N2, N0, N0, N2, N1, N2, N0, N0⟩ : Grid) P1 = some (ZP, some M02) :=
  readBoardAux_step P2 5 (⟨N1, N2, N0, N0, N2, N1, N2, N0, N0⟩ : Grid) P1 [M02, M10, M21, M22] rfl rfl
    (collectScores_cons v121021200 (collectScores_cons v120121200 (collectScores_cons v120021210 (collectScores_cons v120021201 collectScores_nil)))) rfl

theorem t120021020 : readBoardAux P2 6 (⟨N1, N2, N0, N0, N2, N1, N0, N2, N0⟩ : Grid) P1 = some (ZP, none) :=
  rfl

theorem t120021122 : readBoardAux P2 4 (⟨N1, N2, N0, N0, N2, N1, N1, N2, N2⟩ : Grid) P1 = some (ZP, none) :=
  rfl

theorem v120021102 : readBoardAux P2 5 (⟨N1, N2, N0, N0, N2, N1, N1, N0, N2⟩ : Grid) P2 = some (ZP, some M21) :=
  readBoardAux_step P2 4 (⟨N1, N2, N0, N0, N2, N1, N1, N0, N2⟩ : Grid) P2 [M02, M10, M21] rfl rfl
    (collectScores_cons v122021102 (collectScores_cons v120221102 (collectScores_cons t120021122 collectScores_nil))) rfl

theorem v120021012 : readBoardAux P2 5 (⟨N1, N2, N0, N0, N2, N1, N0, N1, N2⟩ : Grid) P2 = some (Z0, some M02) :=
  readBoardAux_step P2 4 (⟨N1, N2, N0, N0, N2, N1, N0, N1, N2⟩ : Grid) P2 [M02, M10, M20] rfl rfl
    (collectScores_cons v122021012 (collectScores_cons v120221012 (collectScores_cons v120021212 collectScores_nil))) rfl

theorem v120021002 : readBoardAux P2 6 (⟨N1, N2, N0, N0, N2, N1, N0, N0, N2⟩ : Grid) P1 = some (Z0, some M21) :=
  readBoardAux_step P2 5 (⟨N1, N2, N0, N0, N2, N1, N0, N0, N2⟩ : Grid) P1 [M02, M10, M20, M21] rfl rfl
    (collectScores_cons v121021002 (collectScores_cons v120121002 (collectScores_cons v120021102 (collectScores_cons v120021012 collectScores_nil)))) rfl

theorem v120021000 : readBoardAux P2 7 (⟨N1, N2, N0, N0, N2, N1, N0, N0, N0⟩ : Grid) P2 = some (ZP, some M02) :=
  readBoardAux_step P2 6 (⟨N1, N2, N0, N0, N2, N1, N0, N0, N0⟩ : Grid) P2 [M02, M10, M20, M21, M22] rfl rfl
    (collectScores_cons v122021000 (collectScores_cons v120221000 (collectScores_cons v120021200 (collectScores_cons t120021020 (collectScores_cons v120021002 collectScores_nil))))) rfl

theorem v120022112 : readBoardAux P2 4 (⟨N1, N2, N0, N0, N2, N2, N1, N1, N2⟩ : Grid) P1 = some (ZM, some M10) :=
  readBoardAux_step P2 3 (⟨N1, N2, N0, N0, N2, N2, N1, N1, N2⟩ : Grid) P1 [M02, M10] rfl rfl
    (collectScores_cons v121022112 (collectScores_cons t120122112 collectScores_nil)) rfl

theorem v120022110 : readBoardAux P2 5 (⟨N1, N2, N0, N0, N2, N2, N1, N1, N0⟩ : Grid) P2 = some (ZP, some M10) :=
  readBoardAux_step P2 4 (⟨N1, N2, N0, N0, N2, N2, N1, N1, N0⟩ : Grid) P2 [M02, M10, M22] rfl rfl
    (collectScores_cons v122022110 (collectScores_cons t120222110 (collectScores_cons v120022112 collectScores_nil))) rfl

theorem t120022121 : readBoardAux P2 4 (⟨N1, N2, N0, N0, N2, N2, N1, N2, N1⟩ : Grid) P1 = some (ZP, none) :=
  rfl

theorem v120022101 : readBoardAux P2 5 (⟨N1, N2, N0, N0, N2, N2, N1, N0, N1⟩ : Grid) P2 = some (ZP, some M10) :=
  readBoardAux_step P2 4 (⟨N1, N2, N0, N0, N2, N2, N1, N0, N1⟩ : Grid) P2 [M02, M10, M21] rfl rfl
    (collectScores_cons v122022101 (collectScores_cons t120222101 (collectScores_cons t120022121 collectScores_nil))) rfl

theorem v120022100 : readBoardAux P2 6 (⟨N1, N2, N0, N0, N2, N2, N1, N0, N0⟩ : Grid) P1 = some (ZM, some M10) :=
  readBoardAux_step P2 5 (⟨N1, N2, N0, N0, N2, N2, N1, N0, N0⟩ : Grid) P1 [M02, M10, M21, M22] rfl rfl
    (collectScores_cons v121022100 (collectScores_cons t120122100 (collectScores_cons v120022110 (collectScores_cons v120022101 collectScores_nil)))) rfl

theorem t120020120 : readBoardAux P2 6 (⟨N1, N2, N0, N0, N2, N0, N1, N2, N0⟩ : Grid) P1 = some (ZP, none) :=
  rfl

theorem v120020112 : readBoardAux P2 5 (⟨N1, N2, N0, N0, N2, N0, N1, N1, N2⟩ : Grid) P2 = some (Z0, some M10) :=
  readBoardAux_step P2 4 (⟨N1, N2, N0, N0, N2, N0, N1, N1, N2⟩ : Grid) P2 [M02, M10, M12] rfl rfl
    (collectScores_cons v122020112 (collectScores_cons v120220112 (collectScores_cons v120022112 collectScores_nil))) rfl

theorem v120020102 : readBoardAux P2 6 (⟨N1, N2, N0, N0, N2, N0, N1, N0, N2⟩ : Grid) P1 = some (ZM, some M10) :=
  readBoardAux_step P2 5 (⟨N1, N2, N0, N0, N2, N0, N1, N0, N2⟩ : Grid) P1 [M02, M10, M12, M21] rfl rfl
    (collectScores_cons v121020102 (collectScores_cons t120120102 (collectScores_cons v120021102 (collectScores_cons v120020112 collectScores_nil)))) rfl

theorem v120020100 : readBoardAux P2 7 (⟨N1, N2, N0, N0, N2, N0, N1, N0, N0⟩ : Grid) P2 = some (ZP, some M10) :=
  readBoardAux_step P2 6 (⟨N1, N2, N0, N0, N2, N0, N1, N0, N0⟩ : Grid) P2 [M02, M10, M12, M21, M22] rfl rfl
    (collectScores_cons v122020100 (collectScores_cons v120220100 (collectScores_cons v120022100 (collectScores_cons t120020120 (collectScores_cons v120020102 collectScores_nil))))) rfl

theorem v120022211 : readBoardAux P2 4 (⟨N1, N2, N0, N0, N2, N2, N2, N1, N1⟩ : Grid) P1 = some (ZP, some M02) :=
  readBoardAux_step P2 3 (⟨N1, N2, N0, N0, N2, N2, N2, N1, N1⟩ : Grid) P1 [M02, M10] rfl rfl
    (collectScores_cons v121022211 (collectScores_cons v120122211 collectScores_nil)) rfl

theorem v120022011 : readBoardAux P2 5 (⟨N1, N2, N0, N0, N2, N2, N0, N1, N1⟩ : Grid) P2 = some (ZP, some M10) :=
  readBoardAux_step P2 4 (⟨N1, N2, N0, N0, N2, N2, N0, N1, N1⟩ : Grid) P2 [M02, M10, M20] rfl rfl
    (collectScores_cons v122022011 (collectScores_cons t120222011 (collectScores_cons v120022211 collectScores_nil))) rfl

theorem v120022010 : readBoardAux P2 6 (⟨N1, N2, N0, N0, N2, N2, N0, N1, N0⟩ : Grid) P1 = some (Z0, some M10) :=
  readBoardAux_step P2 5 (⟨N1, N2, N0, N0, N2, N2, N0, N1, N0⟩ : Grid) P1 [M02, M10, M20, M22] rfl rfl
    (collectScores_cons v121022010 (collectScores_cons v120122010 (collectScores_cons v120022110 (collectScores_cons v120022011 collectScores_nil)))) rfl

theorem v120020211 : readBoardAux P2 5 (⟨N1, N2, N0, N0, N2, N0, N2, N1, N1⟩ : Grid) P2 = some (ZP, some M02) :=
  readBoardAux_step P2 4 (⟨N1, N2, N0, N0, N2, N0, N2, N1, N1⟩ : Grid) P2 [M02, M10, M12] rfl rfl
    (collectScores_cons t122020211 (collectScores_cons v120220211 (collectScores_cons v120022211 collectScores_nil))) rfl

theorem v120020210 : readBoardAux P2 6 (⟨N1, N2, N0, N0, N2, N0, N2, N1, N0⟩ : Grid) P1 = some (Z0, some M02) :=
  readBoardAux_step P2 5 (⟨N1, N2, N0, N0, N2, N0, N2, N1, N0⟩ : Grid) P1 [M02, M10, M12, M22] rfl rfl
    (collectScores_cons v121020210 (collectScores_cons v120120210 (collectScores_cons v120021210 (collectScores_cons v120020211 collectScores_nil)))) rfl

theorem v120020012 : readBoardAux P2 6 (⟨N1, N2, N0, N0, N2, N0, N0, N1, N2⟩ : Grid) P1 = some (Z0, some M02) :=
  readBoardAux_step P2 5 (⟨N1, N2, N0, N0, N2, N0, N0, N1, N2⟩ : Grid) P1 [M02, M10, M12, M20] rfl rfl
    (collectScores_cons v121020012 (collectScores_cons v120120012 (collectScores_cons v120021012 (collectScores_cons v120020112 collectScores_nil)))) rfl

theorem v120020010 : readBoardAux P2 7 (⟨N1, N2, N0, N0, N2, N0, N0, N1, N0⟩ : Grid) P2 = some (Z0, some M10) :=
  readBoardAux_step P2 6 (⟨N1, N2, N0, N0, N2, N0, N0, N1, N0⟩ : Grid) P2 [M02, M10, M12, M20, M22] rfl rfl
    (collectScores_cons v122020010 (collectScores_cons v120220010 (collectScores_cons v120022010 (collectScores_cons v120020210 (collectScores_cons v120020012 collectScores_nil))))) rfl

theorem v120022001 : readBoardAux P2 6 (⟨N1, N2, N0, N0, N2, N2, N0, N0, N1⟩ : Grid) P1 = some (ZP, some M02) :=
  readBoardAux_step P2 5 (⟨N1, N2, N0, N0, N2, N2, N0, N0, N1⟩ : Grid) P1 [M02, M10, M20, M21] rfl rfl
    (collectScores_cons v121022001 (collectScores_cons v120122001 (collectScores_cons v120022101 (collectScores_cons v120022011 collectScores_nil)))) rfl

theorem v120020201 : readBoardAux P2 6 (⟨N1, N2, N0, N0, N2, N0, N2, N0, N1⟩ : Grid) P1 = some (ZP, some M02) :=
  readBoardAux_step P2 5 (⟨N1, N2, N0, N0, N2, N0, N2, N0, N1⟩ : Grid) P1 [M02, M10, M12, M21] rfl rfl
    (collectScores_cons v121020201 (collectScores_cons v120120201 (collectScores_cons v120021201 (collectScores_cons v120020211 collectScores_nil)))) rfl

theorem t120020021 : readBoardAux P2 6 (⟨N1, N2, N0, N0, N2, N0, N0, N2, N1⟩ : Grid) P1 = some (ZP, none) :=
  rfl

theorem v120020001 : readBoardAux P2 7 (⟨N1, N2, N0, N0, N2, N0, N0, N0, N1⟩ : Grid) P2 = some (ZP, some M02) :=
  readBoardAux_step P2 6 (⟨N1, N2, N0, N0, N2, N0, N0, N0, N1⟩ : Grid) P2 [M02, M10, M12, M20, M21] rfl rfl
    (collectScores_cons v122020001 (collectScores_cons v120220001 (collectScores_cons v120022001 (collectScores_cons v120020201 (collectScores_cons t120020021 collectScores_nil))))) rfl

theorem v120020000 : readBoardAux P2 8 (⟨N1, N2, N0, N0, N2, N0, N0, N0, N0⟩ : Grid) P1 = some (Z0, some M21) :=
  readBoardAux_step P2 7 (⟨N1, N2, N0, N0, N2, N0, N0, N0, N0⟩ : Grid) P1 [M02, M10, M12, M20, M21, M22] rfl rfl
    (collectScores_cons v121020000 (collectScores_cons v120120000 (collectScores_cons v120021000 (collectScores_cons v120020100 (collectScores_cons v120020010 (collectScores_cons v120020001 collectScores_nil)))))) rfl

theorem t121112222 : readBoardAux P2 2 (⟨N1, N2, N1, N1, N1, N2, N2, N2, N2⟩ : Grid) P1 = some (ZP, none) :=
  rfl

theorem v121112220 : readBoardAux P2 3 (⟨N1, N2, N1, N1, N1, N2, N2, N2, N0⟩ : Grid) P2 = some (ZP, some M22) :=
  readBoardAux_step P2 2 (⟨N1, N2, N1, N1, N1, N2, N2, N2, N0⟩ : Grid) P2 [M22] rfl rfl
    (collectScores_cons t121112222 collectScores_nil) rfl

theorem v121102221 : readBoardAux P2 3 (⟨N1, N2, N1, N1, N0, N2, N2, N2, N1⟩ : Grid) P2 = some (ZP, some M11) :=
  readBoardAux_step P2 2 (⟨N1, N2, N1, N1, N0, N2, N2, N2, N1⟩ : Grid) P2 [M11] rfl rfl
    (collectScores_cons t121122221 collectScores_nil) rfl

theorem v121102220 : readBoardAux P2 4 (⟨N1, N2, N1, N1, N0, N2, N2, N2, N0⟩ : Grid) P1 = some (ZP, some M11) :=
  readBoardAux_step P2 3 (⟨N1, N2, N1, N1, N0, N2, N2, N2, N0⟩ : Grid) P1 [M11, M22] rfl rfl
    (collectScores_cons v121112220 (collectScores_cons v121102221 collectScores_nil)) rfl

theorem v121112202 : readBoardAux P2 3 (⟨N1, N2, N1, N1, N1, N2, N2, N0, N2⟩ : Grid) P2 = some (ZP, some M21) :=
  readBoardAux_step P2 2 (⟨N1, N2, N1, N1, N1, N2, N2, N0, N2⟩ : Grid) P2 [M21] rfl rfl
    (collectScores_cons t121112222 collectScores_nil) rfl

theorem v121102212 : readBoardAux P2 3 (⟨N1, N2, N1, N1, N0, N2, N2, N1, N2⟩ : Grid) P2 = some (Z0, some M11) :=
  readBoardAux_step P2 2 (⟨N1, N2, N1, N1, N0, N2, N2, N1, N2⟩ : Grid) P2 [M11] rfl rfl
    (collectScores_cons t121122212 collectScores_nil) rfl

theorem v121102202 : readBoardAux P2 4 (⟨N1, N2, N1, N1, N0, N2, N2, N0, N2⟩ : Grid) P1 = some (Z0, some M21) :=
  readBoardAux_step P2 3 (⟨N1, N2, N1, N1, N0, N2, N2, N0, N2⟩ : Grid) P1 [M11, M21] rfl rfl
    (collectScores_cons v121112202 (collectScores_cons v121102212 collectScores_nil)) rfl

theorem v121102200 : readBoardAux P2 5 (⟨N1, N2, N1, N1, N0, N2, N2, N0, N0⟩ : Grid) P2 = some (ZP, some M21) :=
  readBoardAux_step P2 4 (⟨N1, N2, N1, N1, N0, N2, N2, N0, N0⟩ : Grid) P2 [M11, M21, M22] rfl rfl
    (collectScores_cons v121122200 (collectScores_cons v121102220 (collectScores_cons v121102202 collectScores_nil))) rfl

theorem t121012221 : readBoardAux P2 3 (⟨N1, N2, N1, N0, N1, N2, N2, N2, N1⟩ : Grid) P2 = some (ZM, none) :=
  rfl

theorem v121012220 : readBoardAux P2 4 (⟨N1, N2, N1, N0, N1, N2, N2, N2, N0⟩ : Grid) P1 = some (ZM, some M22) :=
  readBoardAux_step P2 3 (⟨N1, N2, N1, N0, N1, N2, N2, N2, N0⟩ : Grid) P1 [M10, M22] rfl rfl
    (collectScores_cons v121112220 (collectScores_cons t121012221 collectScores_nil)) rfl

theorem v121012212 : readBoardAux P2 3 (⟨N1, N2, N1, N0, N1, N2, N2, N1, N2⟩ : Grid) P2 = some (Z0, some M10) :=
  readBoardAux_step P2 2 (⟨N1, N2, N1, N0, N1, N2, N2, N1, N2⟩ : Grid) P2 [M10] rfl rfl
    (collectScores_cons t121212212 collectScores_nil) rfl

theorem v121012202 : readBoardAux P2 4 (⟨N1, N2, N1, N0, N1, N2, N2, N0, N2⟩ : Grid) P1 = some (Z0, some M21) :=
  readBoardAux_step P2 3 (⟨N1, N2, N1, N0, N1, N2, N2, N0, N2⟩ : Grid) P1 [M10, M21] rfl rfl
    (collectScores_cons v121112202 (collectScores_cons v121012212 collectScores_nil)) rfl

theorem v121012200 : readBoardAux P2 5 (⟨N1, N2, N1, N0, N1, N2, N2, N0, N0⟩ : Grid) P2 = some (Z0, some M22) :=
  readBoardAux_step P2 4 (⟨N1, N2, N1, N0, N1, N2, N2, N0, N0⟩ : Grid) P2 [M10, M21, M22] rfl rfl
    (collectScores_cons v121212200 (collectScores_cons v121012220 (collectScores_cons v121012202 collectScores_nil))) rfl

theorem v121002212 : readBoardAux P2 4 (⟨N1, N2, N1, N0, N0, N2, N2, N1, N2⟩ : Grid) P1 = some (Z0, some M10) :=
  readBoardAux_step P2 3 (⟨N1, N2, N1, N0, N0, N2, N2, N1, N2⟩ : Grid) P1 [M10, M11] rfl rfl
    (collectScores_cons v121102212 (collectScores_cons v121012212 collectScores_nil)) rfl

theorem v121002210 : readBoardAux P2 5 (⟨N1, N2, N1, N0, N0, N2, N2, N1, N0⟩ : Grid) P2 = some (Z0, some M10) :=
  readBoardAux_step P2 4 (⟨N1, N2, N1, N0, N0, N2, N2, N1, N0⟩ : Grid) P2 [M10, M11, M22] rfl rfl
    (collectScores_cons v121202210 (collectScores_cons v121022210 (collectScores_cons v121002212 collectScores_nil))) rfl

theorem v121002221 : readBoardAux P2 4 (⟨N1, N2, N1, N0, N0, N2, N2, N2, N1⟩ : Grid) P1 = some (ZM, some M11) :=
  readBoardAux_step P2 3 (⟨N1, N2, N1, N0, N0, N2, N2, N2, N1⟩ : Grid) P1 [M10, M11] rfl rfl
    (collectScores_cons v121102221 (collectScores_cons t121012221 collectScores_nil)) rfl

theorem v121002201 : readBoardAux P2 5 (⟨N1, N2, N1, N0, N0, N2, N2, N0, N1⟩ : Grid) P2 = some (ZP, some M11) :=
  readBoardAux_step P2 4 (⟨N1, N2, N1, N0, N0, N2, N2, N0, N1⟩ : Grid) P2 [M10, M11, M21] rfl rfl
    (collectScores_cons v121202201 (collectScores_cons v121022201 (collectScores_cons v121002221 collectScores_nil))) rfl

theorem v121002200 : readBoardAux P2 6 (⟨N1, N2, N1, N0, N0, N2, N2, N0, N0⟩ : Grid) P1 = some (Z0, some M11) :=
  readBoardAux_step P2 5 (⟨N1, N2, N1, N0, N0, N2, N2, N0, N0⟩ : Grid) P1 [M10, M11, M21, M22] rfl rfl
    (collectScores_cons v121102200 (collectScores_cons v121012200 (collectScores_cons v121002210 (collectScores_cons v121002201 collectScores_nil)))) rfl

theorem v121112022 : readBoardAux P2 3 (⟨N1, N2, N1, N1, N1, N2, N0, N2, N2⟩ : Grid) P2 = some (ZP, some M20) :=
  readBoardAux_step P2 2 (⟨N1, N2, N1, N1, N1, N2, N0, N2, N2⟩ : Grid) P2 [M20] rfl rfl
    (collectScores_cons t121112222 collectScores_nil) rfl

theorem t121102122 : readBoardAux P2 3 (⟨N1, N2, N1, N1, N0, N2, N1, N2, N2⟩ : Grid) P2 = some (ZM, none) :=
  rfl

theorem v121102022 : readBoardAux P2 4 (⟨N1, N2, N1, N1, N0, N2, N0, N2, N2⟩ : Grid) P1 = some (ZM, some M20) :=
  readBoardAux_step P2 3 (⟨N1, N2, N1, N1, N0, N2, N0, N2, N2⟩ : Grid) P1 [M11, M20] rfl rfl
    (collectScores_cons v121112022 (collectScores_cons t121102122 collectScores_nil)) rfl

theorem v121102020 : readBoardAux P2 5 (⟨N1, N2, N1, N1, N0, N2, N0, N2, N0⟩ : Grid) P2 = some (ZP, some M11) :=
  readBoardAux_step P2 4 (⟨N1, N2, N1, N1, N0, N2, N0, N2, N0⟩ : Grid) P2 [M11, M20, M22] rfl rfl
    (collectScores_cons t121122020 (collectScores_cons v121102220 (collectScores_cons v121102022 collectScores_nil))) rfl

theorem t121012122 : readBoardAux P2 3 (⟨N1, N2, N1, N0, N1, N2, N1, N2, N2⟩ : Grid) P2 = some (ZM, none) :=
  rfl

theorem v121012022 : readBoardAux P2 4 (⟨N1, N2, N1, N0, N1, N2, N0, N2, N2⟩ : Grid) P1 = some (ZM, some M20) :=
  readBoardAux_step P2 3 (⟨N1, N2, N1, N0, N1, N2, N0, N2, N2⟩ : Grid) P1 [M10, M20] rfl rfl
    (collectScores_cons v121112022 (collectScores_cons t121012122 collectScores_nil)) rfl

theorem v121012020 : readBoardAux P2 5 (⟨N1, N2, N1, N0, N1, N2, N0, N2, N0⟩ : Grid) P2 = some (ZM, some M10) :=
  readBoardAux_step P2 4 (⟨N1, N2, N1, N0, N1, N2, N0, N2, N0⟩ : Grid) P2 [M10, M20, M22] rfl rfl
    (collectScores_cons v121212020 (collectScores_cons v121012220 (collectScores_cons v121012022 collectScores_nil))) rfl

theorem v121002122 : readBoardAux P2 4 (⟨N1, N2, N1, N0, N0, N2, N1, N2, N2⟩ : Grid) P1 = some (ZM, some M10) :=
  readBoardAux_step P2 3 (⟨N1, N2, N1, N0, N0, N2, N1, N2, N2⟩ : Grid) P1 [M10, M11] rfl rfl
    (collectScores_cons t121102122 (collectScores_cons t121012122 collectScores_nil)) rfl

theorem v121002120 : readBoardAux P2 5 (⟨N1, N2, N1, N0, N0, N2, N1, N2, N0⟩ : Grid) P2 = some (ZP, some M11) :=
  readBoardAux_step P2 4 (⟨N1, N2, N1, N0, N0, N2, N1, N2, N0⟩ : Grid) P2 [M10, M11, M22] rfl rfl
    (collectScores_cons v121202120 (collectScores_cons t121022120 (collectScores_cons v121002122 collectScores_nil))) rfl

theorem v121002021 : readBoardAux P2 5 (⟨N1, N2, N1, N0, N0, N2, N0, N2, N1⟩ : Grid) P2 = some (ZP, some M11) :=
  readBoardAux_step P2 4 (⟨N1, N2, N1, N0, N0, N2, N0, N2, N1⟩ : Grid) P2 [M10, M11, M20] rfl rfl
    (collectScores_cons v121202021 (collectScores_cons t121022021 (collectScores_cons v121002221 collectScores_nil))) rfl

theorem v121002020 : readBoardAux P2 6 (⟨N1, N2, N1, N0, N0, N2, N0, N2, N0⟩ : Grid) P1 = some (ZM, some M11) :=
  readBoardAux_step P2 5 (⟨N1, N2, N1, N0, N0, N2, N0, N2, N0⟩ : Grid) P1 [M10, M11, M20, M22] rfl rfl
    (collectScores_cons v121102020 (collectScores_cons v121012020 (collectScores_cons v121002120 (collectScores_cons v121002021 collectScores_nil)))) rfl

theorem v121102002 : readBoardAux P2 5 (⟨N1, N2, N1, N1, N0, N2, N0, N0, N2⟩ : Grid) P2 = some (Z0, some M20) :=
  readBoardAux_step P2 4 (⟨N1, N2, N1, N1, N0, N2, N0, N0, N2⟩ : Grid) P2 [M11, M20, M21] rfl rfl
    (collectScores_cons v121122002 (collectScores_cons v121102202 (collectScores_cons v121102022 collectScores_nil))) rfl

theorem v121012002 : readBoardAux P2 5 (⟨N1, N2, N1, N0, N1, N2, N0, N0, N2⟩ : Grid) P2 = some (Z0, some M20) :=
  readBoardAux_step P2 4 (⟨N1, N2, N1, N0, N1, N2, N0, N0, N2⟩ : Grid) P2 [M10, M20, M21] rfl rfl
    (collectScores_cons v121212002 (collectScores_cons v121012202 (collectScores_cons v121012022 collectScores_nil))) rfl

theorem v121002102 : readBoardAux P2 5 (⟨N1, N2, N1, N0, N0, N2, N1, N0, N2⟩ : Grid) P2 = some (ZM, some M10) :=
  readBoardAux_step P2 4 (⟨N1, N2, N1, N0, N0, N2, N1, N0, N2⟩ : Grid) P2 [M10, M11, M21] rfl rfl
    (collectScores_cons v121202102 (collectScores_cons v121022102 (collectScores_cons v121002122 collectScores_nil))) rfl

theorem v121002012 : readBoardAux P2 5 (⟨N1, N2, N1, N0, N0, N2, N0, N1, N2⟩ : Grid) P2 = some (Z0, some M10) :=
  readBoardAux_step P2 4 (⟨N1, N2, N1, N0, N0, N2, N0, N1, N2⟩ : Grid) P2 [M10, M11, M20] rfl rfl
    (collectScores_cons v121202012 (collectScores_cons v121022012 (collectScores_cons v121002212 collectScores_nil))) rfl

theorem v121002002 : readBoardAux P2 6 (⟨N1, N2, N1, N0, N0, N2, N0, N0, N2⟩ : Grid) P1 = some (ZM, some M20) :=
  readBoardAux_step P2 5 (⟨N1, N2, N1, N0, N0, N2, N0, N0, N2⟩ : Grid) P1 [M10, M11, M20, M21] rfl rfl
    (collectScores_cons v121102002 (collectScores_cons v121012002 (collectScores_cons v121002102 (collectScores_cons v121002012 collectScores_nil)))) rfl

theorem v121002000 : readBoardAux P2 7 (⟨N1, N2, N1, N0, N0, N2, N0, N0, N0⟩ : Grid) P2 = some (ZP, some M11) :=
  readBoardAux_step P2 6 (⟨N1, N2, N1, N0, N0, N2, N0, N0, N0⟩ : Grid) P2 [M10, M11, M20, M21, M22] rfl rfl
    (collectScores_cons v121202000 (collectScores_cons v121022000 (collectScores_cons v121002200 (collectScores_cons v121002020 (collectScores_cons v121002002 collectScores_nil))))) rfl

theorem t120112221 : readBoardAux P2 3 (⟨N1, N2, N0, N1, N1, N2, N2, N2, N1⟩ : Grid) P2 = some (ZM, none) :=
  rfl

theorem v120112220 : readBoardAux P2 4 (⟨N1, N2, N0, N1, N1, N2, N2, N2, N0⟩ : Grid) P1 = some (ZM, some M22) :=
  readBoardAux_step P2 3 (⟨N1, N2, N0, N1, N1, N2, N2, N2, N0⟩ : Grid) P1 [M02, M22] rfl rfl
    (collectScores_cons v121112220 (collectScores_cons t120112221 collectScores_nil)) rfl

theorem v120112212 : readBoardAux P2 3 (⟨N1, N2, N0, N1, N1, N2, N2, N1, N2⟩ : Grid) P2 = some (ZP, some M02) :=
  readBoardAux_step P2 2 (⟨N1, N2, N0, N1, N1, N2, N2, N1, N2⟩ : Grid) P2 [M02] rfl rfl
    (collectScores_cons t122112212 collectScores_nil) rfl

theorem v120112202 : readBoardAux P2 4 (⟨N1, N2, N0, N1, N1, N2, N2, N0, N2⟩ : Grid) P1 = some (ZP, some M02) :=
  readBoardAux_step P2 3 (⟨N1, N2, N0, N1, N1, N2, N2, N0, N2⟩ : Grid) P1 [M02, M21] rfl rfl
    (collectScores_cons v121112202 (collectScores_cons v120112212 collectScores_nil)) rfl

theorem v120112200 : readBoardAux P2 5 (⟨N1, N2, N0, N1, N1, N2, N2, N0, N0⟩ : Grid) P2 = some (ZP, some M22) :=
  readBoardAux_step P2 4 (⟨N1, N2, N0, N1, N1, N2, N2, N0, N0⟩ : Grid) P2 [M02, M21, M22] rfl rfl
    (collectScores_cons v122112200 (collectScores_cons v120112220 (collectScores_cons v120112202 collectScores_nil))) rfl

theorem v120102212 : readBoardAux P2 4 (⟨N1, N2, N0, N1, N0, N2, N2, N1, N2⟩ : Grid) P1 = some (Z0, some M02) :=
  readBoardAux_step P2 3 (⟨N1, N2, N0, N1, N0, N2, N2, N1, N2⟩ : Grid) P1 [M02, M11] rfl rfl
    (collectScores_cons v121102212 (collectScores_cons v120112212 collectScores_nil)) rfl

theorem v120102210 : readBoardAux P2 5 (⟨N1, N2, N0, N1, N0, N2, N2, N1, N0⟩ : Grid) P2 = some (ZP, some M02) :=
  readBoardAux_step P2 4 (⟨N1, N2, N0, N1, N0, N2, N2, N1, N0⟩ : Grid) P2 [M02, M11, M22] rfl rfl
    (collectScores_cons v122102210 (collectScores_cons v120122210 (collectScores_cons v120102212 collectScores_nil))) rfl

theorem v120102221 : readBoardAux P2 4 (⟨N1, N2, N0, N1, N0, N2, N2, N2, N1⟩ : Grid) P1 = some (ZM, some M11) :=
  readBoardAux_step P2 3 (⟨N1, N2, N0, N1, N0, N2, N2, N2, N1⟩ : Grid) P1 [M02, M11] rfl rfl
    (collectScores_cons v121102221 (collectScores_cons t120112221 collectScores_nil)) rfl

theorem v120102201 : readBoardAux P2 5 (⟨N1, N2, N0, N1, N0, N2, N2, N0, N1⟩ : Grid) P2 = some (ZP, some M11) :=
  readBoardAux_step P2 4 (⟨N1, N2, N0, N1, N0, N2, N2, N0, N1⟩ : Grid) P2 [M02, M11, M21] rfl rfl
    (collectScores_cons v122102201 (collectScores_cons v120122201 (collectScores_cons v120102221 collectScores_nil))) rfl

theorem v120102200 : readBoardAux P2 6 (⟨N1, N2, N0, N1, N0, N2, N2, N0, N0⟩ : Grid) P1 = some (ZP, some M02) :=
  readBoardAux_step P2 5 (⟨N1, N2, N0, N1, N0, N2, N2, N0, N0⟩ : Grid) P1 [M02, M11, M21, M22] rfl rfl
    (collectScores_cons v121102200 (collectScores_cons v120112200 (collectScores_cons v120102210 (collectScores_cons v120102201 collectScores_nil)))) rfl

theorem t120112122 : readBoardAux P2 3 (⟨N1, N2, N0, N1, N1, N2, N1, N2, N2⟩ : Grid) P2 = some (ZM, none) :=
  rfl

theorem v120112022 : readBoardAux P2 4 (⟨N1, N2, N0, N1, N1, N2, N0, N2, N2⟩ : Grid) P1 = some (ZM, some M20) :=
  readBoardAux_step P2 3 (⟨N1, N2, N0, N1, N1, N2, N0, N2, N2⟩ : Grid) P1 [M02, M20] rfl rfl
    (collectScores_cons v121112022 (collectScores_cons t120112122 collectScores_nil)) rfl

theorem v120112020 : readBoardAux P2 5 (⟨N1, N2, N0, N1, N1, N2, N0, N2, N0⟩ : Grid) P2 = some (ZM, some M02) :=
  readBoardAux_step P2 4 (⟨N1, N2, N0, N1, N1, N2, N0, N2, N0⟩ : Grid) P2 [M02, M20, M22] rfl rfl
    (collectScores_cons v122112020 (collectScores_cons v120112220 (collectScores_cons v120112022 collectScores_nil))) rfl

theorem t120102120 : readBoardAux P2 5 (⟨N1, N2, N0, N1, N0, N2, N1, N2, N0⟩ : Grid) P2 = some (ZM, none) :=
  rfl

theorem v120102021 : readBoardAux P2 5 (⟨N1, N2, N0, N1, N0, N2, N0, N2, N1⟩ : Grid) P2 = some (ZP, some M11) :=
  readBoardAux_step P2 4 (⟨N1, N2, N0, N1, N0, N2, N0, N2, N1⟩ : Grid) P2 [M02, M11, M20] rfl rfl
    (collectScores_cons v122102021 (collectScores_cons t120122021 (collectScores_cons v120102221 collectScores_nil))) rfl

theorem v120102020 : readBoardAux P2 6 (⟨N1, N2, N0, N1, N0, N2, N0, N2, N0⟩ : Grid) P1 = some (ZM, some M11) :=
  readBoardAux_step P2 5 (⟨N1, N2, N0, N1, N0, N2, N0, N2, N0⟩ : Grid) P1 [M02, M11, M20, M22] rfl rfl
    (collectScores_cons v121102020 (collectScores_cons v120112020 (collectScores_cons t120102120 (collectScores_cons v120102021 collectScores_nil)))) rfl

theorem v120112002 : readBoardAux P2 5 (⟨N1, N2, N0, N1, N1, N2, N0, N0, N2⟩ : Grid) P2 = some (ZP, some M02) :=
  readBoardAux_step P2 4 (⟨N1, N2, N0, N1, N1, N2, N0, N0, N2⟩ : Grid) P2 [M02, M20, M21] rfl rfl
    (collectScores_cons t122112002 (collectScores_cons v120112202 (collectScores_cons v120112022 collectScores_nil))) rfl

theorem t120102102 : readBoardAux P2 5 (⟨N1, N2, N0, N1, N0, N2, N1, N0, N2⟩ : Grid) P2 = some (ZM, none) :=
  rfl

theorem v120102012 : readBoardAux P2 5 (⟨N1, N2, N0, N1, N0, N2, N0, N1, N2⟩ : Grid) P2 = some (ZP, some M02) :=
  readBoardAux_step P2 4 (⟨N1, N2, N0, N1, N0, N2, N0, N1, N2⟩ : Grid) P2 [M02, M11, M20] rfl rfl
    (collectScores_cons t122102012 (collectScores_cons v120122012 (collectScores_cons v120102212 collectScores_nil))) rfl

theorem v120102002 : readBoardAux P2 6 (⟨N1, N2, N0, N1, N0, N2, N0, N0, N2⟩ : Grid) P1 = some (ZM, some M20) :=
  readBoardAux_step P2 5 (⟨N1, N2, N0, N1, N0, N2, N0, N0, N2⟩ : Grid) P1 [M02, M11, M20, M21] rfl rfl
    (collectScores_cons v121102002 (collectScores_cons v120112002 (collectScores_cons t120102102 (collectScores_cons v120102012 collectScores_nil)))) rfl

theorem v120102000 : readBoardAux P2 7 (⟨N1, N2, N0, N1, N0, N2, N0, N0, N0⟩ : Grid) P2 = some (ZP, some M20) :=
  readBoardAux_step P2 6 (⟨N1, N2, N0, N1, N0, N2, N0, N0, N0⟩ : Grid) P2 [M02, M11, M20, M21, M22] rfl rfl
    (collectScores_cons v122102000 (collectScores_cons v120122000 (collectScores_cons v120102200 (collectScores_cons v120102020 (collectScores_cons v120102002 collectScores_nil))))) rfl

theorem v120012212 : readBoardAux P2 4 (⟨N1, N2, N0, N0, N1, N2, N2, N1, N2⟩ : Grid) P1 = some (Z0, some M02) :=
  readBoardAux_step P2 3 (⟨N1, N2, N0, N0, N1, N2, N2, N1, N2⟩ : Grid) P1 [M02, M10] rfl rfl
    (collectScores_cons v121012212 (collectScores_cons v120112212 collectScores_nil)) rfl

theorem v120012210 : readBoardAux P2 5 (⟨N1, N2, N0, N0, N1, N2, N2, N1, N0⟩ : Grid) P2 = some (Z0, some M22) :=
  readBoardAux_step P2 4 (⟨N1, N2, N0, N0, N1, N2, N2, N1, N0⟩ : Grid) P2 [M02, M10, M22] rfl rfl
    (collectScores_cons v122012210 (collectScores_cons v120212210 (collectScores_cons v120012212 collectScores_nil))) rfl

theorem t120012201 : readBoardAux P2 5 (⟨N1, N2, N0, N0, N1, N2, N2, N0, N1⟩ : Grid) P2 = some (ZM, none) :=
  rfl

theorem v120012200 : readBoardAux P2 6 (⟨N1, N2, N0, N0, N1, N2, N2, N0, N0⟩ : Grid) P1 = some (ZM, some M22) :=
  readBoardAux_step P2 5 (⟨N1, N2, N0, N0, N1, N2, N2, N0, N0⟩ : Grid) P1 [M02, M10, M21, M22] rfl rfl
    (collectScores_cons v121012200 (collectScores_cons v120112200 (collectScores_cons v120012210 (collectScores_cons t120012201 collectScores_nil)))) rfl

theorem v120012122 : readBoardAux P2 4 (⟨N1, N2, N0, N0, N1, N2, N1, N2, N2⟩ : Grid) P1 = some (ZM, some M02) :=
  readBoardAux_step P2 3 (⟨N1, N2, N0, N0, N1, N2, N1, N2, N2⟩ : Grid) P1 [M02, M10] rfl rfl
    (collectScores_cons t121012122 (collectScores_cons t120112122 collectScores_nil)) rfl

theorem v120012120 : readBoardAux P2 5 (⟨N1, N2, N0, N0, N1, N2, N1, N2, N0⟩ : Grid) P2 = some (ZM, some M02) :=
  readBoardAux_step P2 4 (⟨N1, N2, N0, N0, N1, N2, N1, N2, N0⟩ : Grid) P2 [M02, M10, M22] rfl rfl
    (collectScores_cons v122012120 (collectScores_cons v120212120 (collectScores_cons v120012122 collectScores_nil))) rfl

theorem t120012021 : readBoardAux P2 5 (⟨N1, N2, N0, N0, N1, N2, N0, N2, N1⟩ : Grid) P2 = some (ZM, none) :=
  rfl

theorem v120012020 : readBoardAux P2 6 (⟨N1, N2, N0, N0, N1, N2, N0, N2, N0⟩ : Grid) P1 = some (ZM, some M02) :=
  readBoardAux_step P2 5 (⟨N1, N2, N0, N0, N1, N2, N0, N2, N0⟩ : Grid) P1 [M02, M10, M20, M22] rfl rfl
    (collectScores_cons v121012020 (collectScores_cons v120112020 (collectScores_cons v120012120 (collectScores_cons t120012021 collectScores_nil)))) rfl

theorem v120012102 : readBoardAux P2 5 (⟨N1, N2, N0, N0, N1, N2, N1, N0, N2⟩ : Grid) P2 = some (ZP, some M02) :=
  readBoardAux_step P2 4 (⟨N1, N2, N0, N0, N1, N2, N1, N0, N2⟩ : Grid) P2 [M02, M10, M21] rfl rfl
    (collectScores_cons t122012102 (collectScores_cons v120212102 (collectScores_cons v120012122 collectScores_nil))) rfl

theorem v120012012 : readBoardAux P2 5 (⟨N1, N2, N0, N0, N1, N2, N0, N1, N2⟩ : Grid) P2 = some (ZP, some M02) :=
  readBoardAux_step P2 4 (⟨N1, N2, N0, N0, N1, N2, N0, N1, N2⟩ : Grid) P2 [M02, M10, M20] rfl rfl
    (collectScores_cons t122012012 (collectScores_cons v120212012 (collectScores_cons v120012212 collectScores_nil))) rfl

theorem v120012002 : readBoardAux P2 6 (⟨N1, N2, N0, N0, N1, N2, N0, N0, N2⟩ : Grid) P1 = some (Z0, some M02) :=
  readBoardAux_step P2 5 (⟨N1, N2, N0, N0, N1, N2, N0, N0, N2⟩ : Grid) P1 [M02, M10, M20, M21] rfl rfl
    (collectScores_cons v121012002 (collectScores_cons v120112002 (collectScores_cons v120012102 (collectScores_cons v120012012 collectScores_nil)))) rfl

theorem v120012000 : readBoardAux P2 7 (⟨N1, N2, N0, N0, N1, N2, N0, N0, N0⟩ : Grid) P2 = some (Z0, some M22) :=
  readBoardAux_step P2 6 (⟨N1, N2, N0, N0, N1, N2, N0, N0, N0⟩ : Grid) P2 [M02, M10, M20, M21, M22] rfl rfl
    (collectScores_cons v122012000 (collectScores_cons v120212000 (collectScores_cons v120012200 (collectScores_cons v120012020 (collectScores_cons v120012002 collectScores_nil))))) rfl

theorem v120002121 : readBoardAux P2 5 (⟨N1, N2, N0, N0, N0, N2, N1, N2, N1⟩ : Grid) P2 = some (ZP, some M11) :=
  readBoardAux_step P2 4 (⟨N1, N2, N0, N0, N0, N2, N1, N2, N1⟩ : Grid) P2 [M02, M10, M11] rfl rfl
    (collectScores_cons v122002121 (collectScores_cons v120202121 (collectScores_cons t120022121 collectScores_nil))) rfl

theorem v120002120 : readBoardAux P2 6 (⟨N1, N2, N0, N0, N0, N2, N1, N2, N0⟩ : Grid) P1 = some (ZM, some M10) :=
  readBoardAux_step P2 5 (⟨N1, N2, N0, N0, N0, N2, N1, N2, N0⟩ : Grid) P1 [M02, M10, M11, M22] rfl rfl
    (collectScores_cons v121002120 (collectScores_cons t120102120 (collectScores_cons v120012120 (collectScores_cons v120002121 collectScores_nil)))) rfl

theorem v120002112 : readBoardAux P2 5 (⟨N1, N2, N0, N0, N0, N2, N1, N1, N2⟩ : Grid) P2 = some (ZP, some M02) :=
  readBoardAux_step P2 4 (⟨N1, N2, N0, N0, N0, N2, N1, N1, N2⟩ : Grid) P2 [M02, M10, M11] rfl rfl
    (collectScores_cons t122002112 (collectScores_cons v120202112 (collectScores_cons v120022112 collectScores_nil))) rfl

theorem v120002102 : readBoardAux P2 6 (⟨N1, N2, N0, N0, N0, N2, N1, N0, N2⟩ : Grid) P1 = some (ZM, some M02) :=
  readBoardAux_step P2 5 (⟨N1, N2, N0, N0, N0, N2, N1, N0, N2⟩ : Grid) P1 [M02, M10, M11, M21] rfl rfl
    (collectScores_cons v121002102 (collectScores_cons t120102102 (collectScores_cons v120012102 (collectScores_cons v120002112 collectScores_nil)))) rfl

theorem v120002100 : readBoardAux P2 7 (⟨N1, N2, N0, N0, N0, N2, N1, N0, N0⟩ : Grid) P2 = some (ZM, some M02) :=
  readBoardAux_step P2 6 (⟨N1, N2, N0, N0, N0, N2, N1, N0, N0⟩ : Grid) P2 [M02, M10, M11, M21, M22] rfl rfl
    (collectScores_cons v122002100 (collectScores_cons v120202100 (collectScores_cons v120022100 (collectScores_cons v120002120 (collectScores_cons v120002102 collectScores_nil))))) rfl

theorem v120002211 : readBoardAux P2 5 (⟨N1, N2, N0, N0, N0, N2, N2, N1, N1⟩ : Grid) P2 = some (ZP, some M11) :=
  readBoardAux_step P2 4 (⟨N1, N2, N0, N0, N0, N2, N2, N1, N1⟩ : Grid) P2 [M02, M10, M11] rfl rfl
    (collectScores_cons v122002211 (collectScores_cons v120202211 (collectScores_cons v120022211 collectScores_nil))) rfl

theorem v120002210 : readBoardAux P2 6 (⟨N1, N2, N0, N0, N0, N2, N2, N1, N0⟩ : Grid) P1 = some (Z0, some M02) :=
  readBoardAux_step P2 5 (⟨N1, N2, N0, N0, N0, N2, N2, N1, N0⟩ : Grid) P1 [M02, M10, M11, M22] rfl rfl
    (collectScores_cons v121002210 (collectScores_cons v120102210 (collectScores_cons v120012210 (collectScores_cons v120002211 collectScores_nil)))) rfl

theorem v120002012 : readBoardAux P2 6 (⟨N1, N2, N0, N0, N0, N2, N0, N1, N2⟩ : Grid) P1 = some (Z0, some M02) :=
  readBoardAux_step P2 5 (⟨N1, N2, N0, N0, N0, N2, N0, N1, N2⟩ : Grid) P1 [M02, M10, M11, M20] rfl rfl
    (collectScores_cons v121002012 (collectScores_cons v120102012 (collectScores_cons v120012012 (collectScores_cons v120002112 collectScores_nil)))) rfl

theorem v120002010 : readBoardAux P2 7 (⟨N1, N2, N0, N0, N0, N2, N0, N1, N0⟩ : Grid) P2 = some (Z0, some M10) :=
  readBoardAux_step P2 6 (⟨N1, N2, N0, N0, N0, N2, N0, N1, N0⟩ : Grid) P2 [M02, M10, M11, M20, M22] rfl rfl
    (collectScores_cons v122002010 (collectScores_cons v120202010 (collectScores_cons v120022010 (collectScores_cons v120002210 (collectScores_cons v120002012 collectScores_nil))))) rfl

theorem v120002201 : readBoardAux P2 6 (⟨N1, N2, N0, N0, N0, N2, N2, N0, N1⟩ : Grid) P1 = some (ZM, some M11) :=
  readBoardAux_step P2 5 (⟨N1, N2, N0, N0, N0, N2, N2, N0, N1⟩ : Grid) P1 [M02, M10, M11, M21] rfl rfl
    (collectScores_cons v121002201 (collectScores_cons v120102201 (collectScores_cons t120012201 (collectScores_cons v120002211 collectScores_nil)))) rfl

theorem v120002021 : readBoardAux P2 6 (⟨N1, N2, N0, N0, N0, N2, N0, N2, N1⟩ : Grid) P1 = some (ZM, some M11) :=
  readBoardAux_step P2 5 (⟨N1, N2, N0, N0, N0, N2, N0, N2, N1⟩ : Grid) P1 [M02, M10, M11, M20] rfl rfl
    (collectScores_cons v121002021 (collectScores_cons v120102021 (collectScores_cons t120012021 (collectScores_cons v120002121 collectScores_nil)))) rfl

theorem v120002001 : readBoardAux P2 7 (⟨N1, N2, N0, N0, N0, N2, N0, N0, N1⟩ : Grid) P2 = some (ZP, some M11) :=
  readBoardAux_step P2 6 (⟨N1, N2, N0, N0, N0, N2, N0, N0, N1⟩ : Grid) P2 [M02, M10, M11, M20, M21] rfl rfl
    (collectScores_cons v122002001 (collectScores_cons v120202001 (collectScores_cons v120022001 (collectScores_cons v120002201 (collectScores_cons v120002021 collectScores_nil))))) rfl

theorem v120002000 : readBoardAux P2 8 (⟨N1, N2, N0, N0, N0, N2, N0, N0, N0⟩ : Grid) P1 = some (ZM, some M20) :=
  readBoardAux_step P2 7 (⟨N1, N2, N0, N0, N0, N2, N0, N0, N0⟩ : Grid) P1 [M02, M10, M11, M20, M21, M22] rfl rfl
    (collectScores_cons v121002000 (collectScores_cons v120102000 (collectScores_cons v120012000 (collectScores_cons v120002100 (collectScores_cons v120002010 (collectScores_cons v120002001 collectScores_nil)))))) rfl

theorem t121100222 : readBoardAux P2 4 (⟨N1, N2, N1, N1, N0, N0, N2, N2, N2⟩ : Grid) P1 = some (ZP, none) :=
  rfl

theorem v121100220 : readBoardAux P2 5 (⟨N1, N2, N1, N1, N0, N0, N2, N2, N0⟩ : Grid) P2 = some (ZP, some M11) :=
  readBoardAux_step P2 4 (⟨N1, N2, N1, N1, N0, N0, N2, N2, N0⟩ : Grid) P2 [M11, M12, M22] rfl rfl
    (collectScores_cons t121120220 (collectScores_cons v121102220 (collectScores_cons t121100222 collectScores_nil))) rfl

theorem t121010222 : readBoardAux P2 4 (⟨N1, N2, N1, N0, N1, N0, N2, N2, N2⟩ : Grid) P1 = some (ZP, none) :=
  rfl

theorem v121010220 : readBoardAux P2 5 (⟨N1, N2, N1, N0, N1, N0, N2, N2, N0⟩ : Grid) P2 = some (ZP, some M22) :=
  readBoardAux_step P2 4 (⟨N1, N2, N1, N0, N1, N0, N2, N2, N0⟩ : Grid) P2 [M10, M12, M22] rfl rfl
    (collectScores_cons v121210220 (collectScores_cons v121012220 (collectScores_cons t121010222 collectScores_nil))) rfl

theorem t121001222 : readBoardAux P2 4 (⟨N1, N2, N1, N0, N0, N1, N2, N2, N2⟩ : Grid) P1 = some (ZP, none) :=
  rfl

theorem v121001220 : readBoardAux P2 5 (⟨N1, N2, N1, N0, N0, N1, N2, N2, N0⟩ : Grid) P2 = some (ZP, some M11) :=
  readBoardAux_step P2 4 (⟨N1, N2, N1, N0, N0, N1, N2, N2, N0⟩ : Grid) P2 [M10, M11, M22] rfl rfl
    (collectScores_cons v121201220 (collectScores_cons t121021220 (collectScores_cons t121001222 collectScores_nil))) rfl

theorem v121000221 : readBoardAux P2 5 (⟨N1, N2, N1, N0, N0, N0, N2, N2, N1⟩ : Grid) P2 = some (ZP, some M11) :=
  readBoardAux_step P2 4 (⟨N1, N2, N1, N0, N0, N0, N2, N2, N1⟩ : Grid) P2 [M10, M11, M12] rfl rfl
    (collectScores_cons v121200221 (collectScores_cons t121020221 (collectScores_cons v121002221 collectScores_nil))) rfl

theorem v121000220 : readBoardAux P2 6 (⟨N1, N2, N1, N0, N0, N0, N2, N2, N0⟩ : Grid) P1 = some (ZP, some M10) :=
  readBoardAux_step P2 5 (⟨N1, N2, N1, N0, N0, N0, N2, N2, N0⟩ : Grid) P1 [M10, M11, M12, M22] rfl rfl
    (collectScores_cons v121100220 (collectScores_cons v121010220 (collectScores_cons v121001220 (collectScores_cons v121000221 collectScores_nil)))) rfl

theorem v121100202 : readBoardAux P2 5 (⟨N1, N2, N1, N1, N0, N0, N2, N0, N2⟩ : Grid) P2 = some (ZP, some M21) :=
  readBoardAux_step P2 4 (⟨N1, N2, N1, N1, N0, N0, N2, N0, N2⟩ : Grid) P2 [M11, M12, M21] rfl rfl
    (collectScores_cons v121120202 (collectScores_cons v121102202 (collectScores_cons t121100222 collectScores_nil))) rfl

theorem v121010202 : readBoardAux P2 5 (⟨N1, N2, N1, N0, N1, N0, N2, N0, N2⟩ : Grid) P2 = some (ZP, some M21) :=
  readBoardAux_step P2 4 (⟨N1, N2, N1, N0, N1, N0, N2, N0, N2⟩ : Grid) P2 [M10, M12, M21] rfl rfl
    (collectScores_cons v121210202 (collectScores_cons v121012202 (collectScores_cons t121010222 collectScores_nil))) rfl

theorem v121001202 : readBoardAux P2 5 (⟨N1, N2, N1, N0, N0, N1, N2, N0, N2⟩ : Grid) P2 = some (ZP, some M21) :=
  readBoardAux_step P2 4 (⟨N1, N2, N1, N0, N0, N1, N2, N0, N2⟩ : Grid) P2 [M10, M11, M21] rfl rfl
    (collectScores_cons v121201202 (collectScores_cons v121021202 (collectScores_cons t121001222 collectScores_nil))) rfl

theorem v121000212 : readBoardAux P2 5 (⟨N1, N2, N1, N0, N0, N0, N2, N1, N2⟩ : Grid) P2 = some (Z0, some M10) :=
  readBoardAux_step P2 4 (⟨N1, N2, N1, N0, N0, N0, N2, N1, N2⟩ : Grid) P2 [M10, M11, M12] rfl rfl
    (collectScores_cons v121200212 (collectScores_cons v121020212 (collectScores_cons v121002212 collectScores_nil))) rfl

theorem v121000202 : readBoardAux P2 6 (⟨N1, N2, N1, N0, N0, N0, N2, N0, N2⟩ : Grid) P1 = some (Z0, some M21) :=
  readBoardAux_step P2 5 (⟨N1, N2, N1, N0, N0, N0, N2, N0, N2⟩ : Grid) P1 [M10, M11, M12, M21] rfl rfl
    (collectScores_cons v121100202 (collectScores_cons v121010202 (collectScores_cons v121001202 (collectScores_cons v121000212 collectScores_nil)))) rfl

theorem v121000200 : readBoardAux P2 7 (⟨N1, N2, N1, N0, N0, N0, N2, N0, N0⟩ : Grid) P2 = some (ZP, some M21) :=
  readBoardAux_step P2 6 (⟨N1, N2, N1, N0, N0, N0, N2, N0, N0⟩ : Grid) P2 [M10, M11, M12, M21, M22] rfl rfl
    (collectScores_cons v121200200 (collectScores_cons v121020200 (collectScores_cons v121002200 (collectScores_cons v121000220 (collectScores_cons v121000202 collectScores_nil))))) rfl

theorem t120110222 : readBoardAux P2 4 (⟨N1, N2, N0, N1, N1, N0, N2, N2, N2⟩ : Grid) P1 = some (ZP, none) :=
  rfl

theorem v120110220 : readBoardAux P2 5 (⟨N1, N2, N0, N1, N1, N0, N2, N2, N0⟩ : Grid) P2 = some (ZP, some M22) :=
  readBoardAux_step P2 4 (⟨N1, N2, N0, N1, N1, N0, N2, N2, N0⟩ : Grid) P2 [M02, M12, M22] rfl rfl
    (collectScores_cons v122110220 (collectScores_cons v120112220 (collectScores_cons t120110222 collectScores_nil))) rfl

theorem t120101222 : readBoardAux P2 4 (⟨N1, N2, N0, N1, N0, N1, N2, N2, N2⟩ : Grid) P1 = some (ZP, none) :=
  rfl

theorem v120101220 : readBoardAux P2 5 (⟨N1, N2, N0, N1, N0, N1, N2, N2, N0⟩ : Grid) P2 = some (ZP, some M11) :=
  readBoardAux_step P2 4 (⟨N1, N2, N0, N1, N0, N1, N2, N2, N0⟩ : Grid) P2 [M02, M11, M22] rfl rfl
    (collectScores_cons v122101220 (collectScores_cons t120121220 (collectScores_cons t120101222 collectScores_nil))) rfl

theorem v120100221 : readBoardAux P2 5 (⟨N1, N2, N0, N1, N0, N0, N2, N2, N1⟩ : Grid) P2 = some (ZP, some M11) :=
  readBoardAux_step P2 4 (⟨N1, N2, N0, N1, N0, N0, N2, N2, N1⟩ : Grid) P2 [M02, M11, M12] rfl rfl
    (collectScores_cons v122100221 (collectScores_cons t120120221 (collectScores_cons v120102221 collectScores_nil))) rfl

theorem v120100220 : readBoardAux P2 6 (⟨N1, N2, N0, N1, N0, N0, N2, N2, N0⟩ : Grid) P1 = some (ZP, some M02) :=
  readBoardAux_step P2 5 (⟨N1, N2, N0, N1, N0, N0, N2, N2, N0⟩ : Grid) P1 [M02, M11, M12, M22] rfl rfl
    (collectScores_cons v121100220 (collectScores_cons v120110220 (collectScores_cons v120101220 (collectScores_cons v120100221 collectScores_nil)))) rfl

theorem v120110202 : readBoardAux P2 5 (⟨N1, N2, N0, N1, N1, N0, N2, N0, N2⟩ : Grid) P2 = some (ZP, some M12) :=
  readBoardAux_step P2 4 (⟨N1, N2, N0, N1, N1, N0, N2, N0, N2⟩ : Grid) P2 [M02, M12, M21] rfl rfl
    (collectScores_cons v122110202 (collectScores_cons v120112202 (collectScores_cons t120110222 collectScores_nil))) rfl

theorem v120101202 : readBoardAux P2 5 (⟨N1, N2, N0, N1, N0, N1, N2, N0, N2⟩ : Grid) P2 = some (ZP, some M11) :=
  readBoardAux_step P2 4 (⟨N1, N2, N0, N1, N0, N1, N2, N0, N2⟩ : Grid) P2 [M02, M11, M21] rfl rfl
    (collectScores_cons v122101202 (collectScores_cons v120121202 (collectScores_cons t120101222 collectScores_nil))) rfl

theorem v120100212 : readBoardAux P2 5 (⟨N1, N2, N0, N1, N0, N0, N2, N1, N2⟩ : Grid) P2 = some (ZP, some M02) :=
  readBoardAux_step P2 4 (⟨N1, N2, N0, N1, N0, N0, N2, N1, N2⟩ : Grid) P2 [M02, M11, M12] rfl rfl
    (collectScores_cons v122100212 (collectScores_cons v120120212 (collectScores_cons v120102212 collectScores_nil))) rfl

theorem v120100202 : readBoardAux P2 6 (⟨N1, N2, N0, N1, N0, N0, N2, N0, N2⟩ : Grid) P1 = some (ZP, some M02) :=
  readBoardAux_step P2 5 (⟨N1, N2, N0, N1, N0, N0, N2, N0, N2⟩ : Grid) P1 [M02, M11, M12, M21] rfl rfl
    (collectScores_cons v121100202 (collectScores_cons v120110202 (collectScores_cons v120101202 (collectScores_cons v120100212 collectScores_nil)))) rfl

theorem v120100200 : readBoardAux P2 7 (⟨N1, N2, N0, N1, N0, N0, N2, N0, N0⟩ : Grid) P2 = some (ZP, some M11) :=
  readBoardAux_step P2 6 (⟨N1, N2, N0, N1, N0, N0, N2, N0, N0⟩ : Grid) P2 [M02, M11, M12, M21, M22] rfl rfl
    (collectScores_cons v122100200 (collectScores_cons v120120200 (collectScores_cons v120102200 (collectScores_cons v120100220 (collectScores_cons v120100202 collectScores_nil))))) rfl

theorem t120011222 : readBoardAux P2 4 (⟨N1, N2, N0, N0, N1, N1, N2, N2, N2⟩ : Grid) P1 = some (ZP, none) :=
  rfl

theorem v120011220 : readBoardAux P2 5 (⟨N1, N2, N0, N0, N1, N1, N2, N2, N0⟩ : Grid) P2 = some (ZP, some M22) :=
  readBoardAux_step P2 4 (⟨N1, N2, N0, N0, N1, N1, N2, N2, N0⟩ : Grid) P2 [M02, M10, M22] rfl rfl
    (collectScores_cons v122011220 (collectScores_cons v120211220 (collectScores_cons t120011222 collectScores_nil))) rfl

theorem t120010221 : readBoardAux P2 5 (⟨N1, N2, N0, N0, N1, N0, N2, N2, N1⟩ : Grid) P2 = some (ZM, none) :=
  rfl

theorem v120010220 : readBoardAux P2 6 (⟨N1, N2, N0, N0, N1, N0, N2, N2, N0⟩ : Grid) P1 = some (ZM, some M22) :=
  readBoardAux_step P2 5 (⟨N1, N2, N0, N0, N1, N0, N2, N2, N0⟩ : Grid) P1 [M02, M10, M12, M22] rfl rfl
    (collectScores_cons v121010220 (collectScores_cons v120110220 (collectScores_cons v120011220 (collectScores_cons t120010221 collectScores_nil)))) rfl

theorem v120011202 : readBoardAux P2 5 (⟨N1, N2, N0, N0, N1, N1, N2, N0, N2⟩ : Grid) P2 = some (ZP, some M21) :=
  readBoardAux_step P2 4 (⟨N1, N2, N0, N0, N1, N1, N2, N0, N2⟩ : Grid) P2 [M02, M10, M21] rfl rfl
    (collectScores_cons v122011202 (collectScores_cons v120211202 (collectScores_cons t120011222 collectScores_nil))) rfl

theorem v120010212 : readBoardAux P2 5 (⟨N1, N2, N0, N0, N1, N0, N2, N1, N2⟩ : Grid) P2 = some (Z0, some M02) :=
  readBoardAux_step P2 4 (⟨N1, N2, N0, N0, N1, N0, N2, N1, N2⟩ : Grid) P2 [M02, M10, M12] rfl rfl
    (collectScores_cons v122010212 (collectScores_cons v120210212 (collectScores_cons v120012212 collectScores_nil))) rfl

theorem v120010202 : readBoardAux P2 6 (⟨N1, N2, N0, N0, N1, N0, N2, N0, N2⟩ : Grid) P1 = some (Z0, some M21) :=
  readBoardAux_step P2 5 (⟨N1, N2, N0, N0, N1, N0, N2, N0, N2⟩ : Grid) P1 [M02, M10, M12, M21] rfl rfl
    (collectScores_cons v121010202 (collectScores_cons v120110202 (collectScores_cons v120011202 (collectScores_cons v120010212 collectScores_nil)))) rfl

theorem v120010200 : readBoardAux P2 7 (⟨N1, N2, N0, N0, N1, N0, N2, N0, N0⟩ : Grid) P2 = some (Z0, some M22) :=
  readBoardAux_step P2 6 (⟨N1, N2, N0, N0, N1, N0, N2, N0, N0⟩ : Grid) P2 [M02, M10, M12, M21, M22] rfl rfl
    (collectScores_cons v122010200 (collectScores_cons v120210200 (collectScores_cons v120012200 (collectScores_cons v120010220 (collectScores_cons v120010202 collectScores_nil))))) rfl

theorem v120001221 : readBoardAux P2 5 (⟨N1, N2, N0, N0, N0, N1, N2, N2, N1⟩ : Grid) P2 = some (ZP, some M11) :=
  readBoardAux_step P2 4 (⟨N1, N2, N0, N0, N0, N1, N2, N2, N1⟩ : Grid) P2 [M02, M10, M11] rfl rfl
    (collectScores_cons v122001221 (collectScores_cons v120201221 (collectScores_cons t120021221 collectScores_nil))) rfl

theorem v120001220 : readBoardAux P2 6 (⟨N1, N2, N0, N0, N0, N1, N2, N2, N0⟩ : Grid) P1 = some (ZP, some M02) :=
  readBoardAux_step P2 5 (⟨N1, N2, N0, N0, N0, N1, N2, N2, N0⟩ : Grid) P1 [M02, M10, M11, M22] rfl rfl
    (collectScores_cons v121001220 (collectScores_cons v120101220 (collectScores_cons v120011220 (collectScores_cons v120001221 collectScores_nil)))) rfl

theorem v120001212 : readBoardAux P2 5 (⟨N1, N2, N0, N0, N0, N1, N2, N1, N2⟩ : Grid) P2 = some (Z0, some M02) :=
  readBoardAux_step P2 4 (⟨N1, N2, N0, N0, N0, N1, N2, N1, N2⟩ : Grid) P2 [M02, M10, M11] rfl rfl
    (collectScores_cons v122001212 (collectScores_cons v120201212 (collectScores_cons v120021212 collectScores_nil))) rfl

theorem v120001202 : readBoardAux P2 6 (⟨N1, N2, N0, N0, N0, N1, N2, N0, N2⟩ : Grid) P1 = some (Z0, some M21) :=
  readBoardAux_step P2 5 (⟨N1, N2, N0, N0, N0, N1, N2, N0, N2⟩ : Grid) P1 [M02, M10, M11, M21] rfl rfl
    (collectScores_cons v121001202 (collectScores_cons v120101202 (collectScores_cons v120011202 (collectScores_cons v120001212 collectScores_nil)))) rfl

theorem v120001200 : readBoardAux P2 7 (⟨N1, N2, N0, N0, N0, N1, N2, N0, N0⟩ : Grid) P2 = some (ZP, some M11) :=
  readBoardAux_step P2 6 (⟨N1, N2, N0, N0, N0, N1, N2, N0, N0⟩ : Grid) P2 [M02, M10, M11, M21, M22] rfl rfl
    (collectScores_cons v122001200 (collectScores_cons v120201200 (collectScores_cons v120021200 (collectScores_cons v120001220 (collectScores_cons v120001202 collectScores_nil))))) rfl

theorem v120000212 : readBoardAux P2 6 (⟨N1, N2, N0, N0, N0, N0, N2, N1, N2⟩ : Grid) P1 = some (Z0, some M02) :=
  readBoardAux_step P2 5 (⟨N1, N2, N0, N0, N0, N0, N2, N1, N2⟩ : Grid) P1 [M02, M10, M11, M12] rfl rfl
    (collectScores_cons v121000212 (collectScores_cons v120100212 (collectScores_cons v120010212 (collectScores_cons v120001212 collectScores_nil)))) rfl

theorem v120000210 : readBoardAux P2 7 (⟨N1, N2, N0, N0, N0, N0, N2, N1, N0⟩ : Grid) P2 = some (Z0, some M02) :=
  readBoardAux_step P2 6 (⟨N1, N2, N0, N0, N0, N0, N2, N1, N0⟩ : Grid) P2 [M02, M10, M11, M12, M22] rfl rfl
    (collectScores_cons v122000210 (collectScores_cons v120200210 (collectScores_cons v120020210 (collectScores_cons v120002210 (collectScores_cons v120000212 collectScores_nil))))) rfl

theorem v120000221 : readBoardAux P2 6 (⟨N1, N2, N0, N0, N0, N0, N2, N2, N1⟩ : Grid) P1 = some (ZM, some M11) :=
  readBoardAux_step P2 5 (⟨N1, N2, N0, N0, N0, N0, N2, N2, N1⟩ : Grid) P1 [M02, M10, M11, M12] rfl rfl
    (collectScores_cons v121000221 (collectScores_cons v120100221 (collectScores_cons t120010221 (collectScores_cons v120001221 collectScores_nil)))) rfl

theorem v120000201 : readBoardAux P2 7 (⟨N1, N2, N0, N0, N0, N0, N2, N0, N1⟩ : Grid) P2 = some (ZP, some M11) :=
  readBoardAux_step P2 6 (⟨N1, N2, N0, N0, N0, N0, N2, N0, N1⟩ : Grid) P2 [M02, M10, M11, M12, M21] rfl rfl
    (collectScores_cons v122000201 (collectScores_cons v120200201 (collectScores_cons v120020201 (collectScores_cons v120002201 (collectScores_cons v120000221 collectScores_nil))))) rfl

theorem v120000200 : readBoardAux P2 8 (⟨N1, N2, N0, N0, N0, N0, N2, N0, N0⟩ : Grid) P1 = some (Z0, some M11) :=
  readBoardAux_step P2 7 (⟨N1, N2, N0, N0, N0, N0, N2, N0, N0⟩ : Grid) P1 [M02, M10, M11, M12, M21, M22] rfl rfl
    (collectScores_cons v121000200 (collectScores_cons v120100200 (collectScores_cons v120010200 (collectScores_cons v120001200 (collectScores_cons v120000210 (collectScores_cons v120000201 collectScores_nil)))))) rfl

theorem v121100022 : readBoardAux P2 5 (⟨N1, N2, N1, N1, N0, N0, N0, N2, N2⟩ : Grid) P2 = some (ZP, some M11) :=
  readBoardAux_step P2 4 (⟨N1, N2, N1, N1, N0, N0, N0, N2, N2⟩ : Grid) P2 [M11, M12, M20] rfl rfl
    (collectScores_cons t121120022 (collectScores_cons v121102022 (collectScores_cons t121100222 collectScores_nil))) rfl

theorem v121010022 : readBoardAux P2 5 (⟨N1, N2, N1, N0, N1, N0, N0, N2, N2⟩ : Grid) P2 = some (ZP, some M20) :=
  readBoardAux_step P2 4 (⟨N1, N2, N1, N0, N1, N0, N0, N2, N2⟩ : Grid) P2 [M10, M12, M20] rfl rfl
    (collectScores_cons v121210022 (collectScores_cons v121012022 (collectScores_cons t121010222 collectScores_nil))) rfl

theorem v121001022 : readBoardAux P2 5 (⟨N1, N2, N1, N0, N0, N1, N0, N2, N2⟩ : Grid) P2 = some (ZP, some M10) :=
  readBoardAux_step P2 4 (⟨N1, N2, N1, N0, N0, N1, N0, N2, N2⟩ : Grid) P2 [M10, M11, M20] rfl rfl
    (collectScores_cons v121201022 (collectScores_cons t121021022 (collectScores_cons t121001222 collectScores_nil))) rfl

theorem v121000122 : readBoardAux P2 5 (⟨N1, N2, N1, N0, N0, N0, N1, N2, N2⟩ : Grid) P2 = some (ZP, some M11) :=
  readBoardAux_step P2 4 (⟨N1, N2, N1, N0, N0, N0, N1, N2, N2⟩ : Grid) P2 [M10, M11, M12] rfl rfl
    (collectScores_cons v121200122 (collectScores_cons t121020122 (collectScores_cons v121002122 collectScores_nil))) rfl

theorem v121000022 : readBoardAux P2 6 (⟨N1, N2, N1, N0, N0, N0, N0, N2, N2⟩ : Grid) P1 = some (ZP, some M10) :=
  readBoardAux_step P2 5 (⟨N1, N2, N1, N0, N0, N0, N0, N2, N2⟩ : Grid) P1 [M10, M11, M12, M20] rfl rfl
    (collectScores_cons v121100022 (collectScores_cons v121010022 (collectScores_cons v121001022 (collectScores_cons v121000122 collectScores_nil)))) rfl

theorem v121000020 : readBoardAux P2 7 (⟨N1, N2, N1, N0, N0, N0, N0, N2, N0⟩ : Grid) P2 = some (ZP, some M11) :=
  readBoardAux_step P2 6 (⟨N1, N2, N1, N0, N0, N0, N0, N2, N0⟩ : Grid) P2 [M10, M11, M12, M20, M22] rfl rfl
    (collectScores_cons v121200020 (collectScores_cons t121020020 (collectScores_cons v121002020 (collectScores_cons v121000220 (collectScores_cons v121000022 collectScores_nil))))) rfl

theorem v120110022 : readBoardAux P2 5 (⟨N1, N2, N0, N1, N1, N0, N0, N2, N2⟩ : Grid) P2 = some (ZP, some M20) :=
  readBoardAux_step P2 4 (⟨N1, N2, N0, N1, N1, N0, N0, N2, N2⟩ : Grid) P2 [M02, M12, M20] rfl rfl
    (collectScores_cons v122110022 (collectScores_cons v120112022 (collectScores_cons t120110222 collectScores_nil))) rfl

theorem v120101022 : readBoardAux P2 5 (⟨N1, N2, N0, N1, N0, N1, N0, N2, N2⟩ : Grid) P2 = some (ZP, some M11) :=
  readBoardAux_step P2 4 (⟨N1, N2, N0, N1, N0, N1, N0, N2, N2⟩ : Grid) P2 [M02, M11, M20] rfl rfl
    (collectScores_cons v122101022 (collectScores_cons t120121022 (collectScores_cons t120101222 collectScores_nil))) rfl

theorem t120100122 : readBoardAux P2 5 (⟨N1, N2, N0, N1, N0, N0, N1, N2, N2⟩ : Grid) P2 = some (ZM, none) :=
  rfl

theorem v120100022 : readBoardAux P2 6 (⟨N1, N2, N0, N1, N0, N0, N0, N2, N2⟩ : Grid) P1 = some (ZM, some M20) :=
  readBoardAux_step P2 5 (⟨N1, N2, N0, N1, N0, N0, N0, N2, N2⟩ : Grid) P1 [M02, M11, M12, M20] rfl rfl
    (collectScores_cons v121100022 (collectScores_cons v120110022 (collectScores_cons v120101022 (collectScores_cons t120100122 collectScores_nil)))) rfl

theorem v120100020 : readBoardAux P2 7 (⟨N1, N2, N0, N1, N0, N0, N0, N2, N0⟩ : Grid) P2 = some (ZP, some M11) :=
  readBoardAux_step P2 6 (⟨N1, N2, N0, N1, N0, N0, N0, N2, N0⟩ : Grid) P2 [M02, M11, M12, M20, M22] rfl rfl
    (collectScores_cons v122100020 (collectScores_cons t120120020 (collectScores_cons v120102020 (collectScores_cons v120100220 (collectScores_cons v120100022 collectScores_nil))))) rfl

theorem v120011022 : readBoardAux P2 5 (⟨N1, N2, N0, N0, N1, N1, N0, N2, N2⟩ : Grid) P2 = some (ZP, some M20) :=
  readBoardAux_step P2 4 (⟨N1, N2, N0, N0, N1, N1, N0, N2, N2⟩ : Grid) P2 [M02, M10, M20] rfl rfl
    (collectScores_cons v122011022 (collectScores_cons v120211022 (collectScores_cons t120011222 collectScores_nil))) rfl

theorem v120010122 : readBoardAux P2 5 (⟨N1, N2, N0, N0, N1, N0, N1, N2, N2⟩ : Grid) P2 = some (ZM, some M02) :=
  readBoardAux_step P2 4 (⟨N1, N2, N0, N0, N1, N0, N1, N2, N2⟩ : Grid) P2 [M02, M10, M12] rfl rfl
    (collectScores_cons v122010122 (collectScores_cons v120210122 (collectScores_cons v120012122 collectScores_nil))) rfl

theorem v120010022 : readBoardAux P2 6 (⟨N1, N2, N0, N0, N1, N0, N0, N2, N2⟩ : Grid) P1 = some (ZM, some M20) :=
  readBoardAux_step P2 5 (⟨N1, N2, N0, N0, N1, N0, N0, N2, N2⟩ : Grid) P1 [M02, M10, M12, M20] rfl rfl
    (collectScores_cons v121010022 (collectScores_cons v120110022 (collectScores_cons v120011022 (collectScores_cons v120010122 collectScores_nil)))) rfl

theorem v120010020 : readBoardAux P2 7 (⟨N1, N2, N0, N0, N1, N0, N0, N2, N0⟩ : Grid) P2 = some (ZM, some M02) :=
  readBoardAux_step P2 6 (⟨N1, N2, N0, N0, N1, N0, N0, N2, N0⟩ : Grid) P2 [M02, M10, M12, M20, M22] rfl rfl
    (collectScores_cons v122010020 (collectScores_cons v120210020 (collectScores_cons v120012020 (collectScores_cons v120010220 (collectScores_cons v120010022 collectScores_nil))))) rfl

theorem v120001122 : readBoardAux P2 5 (⟨N1, N2, N0, N0, N0, N1, N1, N2, N2⟩ : Grid) P2 = some (ZP, some M11) :=
  readBoardAux_step P2 4 (⟨N1, N2, N0, N0, N0, N1, N1, N2, N2⟩ : Grid) P2 [M02, M10, M11] rfl rfl
    (collectScores_cons v122001122 (collectScores_cons v120201122 (collectScores_cons t120021122 collectScores_nil))) rfl

theorem v120001022 : readBoardAux P2 6 (⟨N1, N2, N0, N0, N0, N1, N0, N2, N2⟩ : Grid) P1 = some (ZP, some M02) :=
  readBoardAux_step P2 5 (⟨N1, N2, N0, N0, N0, N1, N0, N2, N2⟩ : Grid) P1 [M02, M10, M11, M20] rfl rfl
    (collectScores_cons v121001022 (collectScores_cons v120101022 (collectScores_cons v120011022 (collectScores_cons v120001122 collectScores_nil)))) rfl

theorem v120001020 : readBoardAux P2 7 (⟨N1, N2, N0, N0, N0, N1, N0, N2, N0⟩ : Grid) P2 = some (ZP, some M11) :=
  readBoardAux_step P2 6 (⟨N1, N2, N0, N0, N0, N1, N0, N2, N0⟩ : Grid) P2 [M02, M10, M11, M20, M22] rfl rfl
    (collectScores_cons v122001020 (collectScores_cons v120201020 (collectScores_cons t120021020 (collectScores_cons v120001220 (collectScores_cons v120001022 collectScores_nil))))) rfl

theorem v120000122 : readBoardAux P2 6 (⟨N1, N2, N0, N0, N0, N0, N1, N2, N2⟩ : Grid) P1 = some (ZM, some M10) :=
  readBoardAux_step P2 5 (⟨N1, N2, N0, N0, N0, N0, N1, N2, N2⟩ : Grid) P1 [M02, M10, M11, M12] rfl rfl
    (collectScores_cons v121000122 (collectScores_cons t120100122 (collectScores_cons v120010122 (collectScores_cons v120001122 collectScores_nil)))) rfl

theorem v120000120 : readBoardAux P2 7 (⟨N1, N2, N0, N0, N0, N0, N1, N2, N0⟩ : Grid) P2 = some (ZP, some M11) :=
  readBoardAux_step P2 6 (⟨N1, N2, N0, N0, N0, N0, N1, N2, N0⟩ : Grid) P2 [M02, M10, M11, M12, M22] rfl rfl
    (collectScores_cons v122000120 (collectScores_cons v120200120 (collectScores_cons t120020120 (collectScores_cons v120002120 (collectScores_cons v120000122 collectScores_nil))))) rfl

theorem v120000021 : readBoardAux P2 7 (⟨N1, N2, N0, N0, N0, N0, N0, N2, N1⟩ : Grid) P2 = some (ZP, some M11) :=
  readBoardAux_step P2 6 (⟨N1, N2, N0, N0, N0, N0, N0, N2, N1⟩ : Grid) P2 [M02, M10, M11, M12, M20] rfl rfl
    (collectScores_cons v122000021 (collectScores_cons v120200021 (collectScores_cons t120020021 (collectScores_cons v120002021 (collectScores_cons v120000221 collectScores_nil))))) rfl

theorem v120000020 : readBoardAux P2 8 (⟨N1, N2, N0, N0, N0, N0, N0, N2, N0⟩ : Grid) P1 = some (ZM, some M11) :=
  readBoardAux_step P2 7 (⟨N1, N2, N0, N0, N0, N0, N0, N2, N0⟩ : Grid) P1 [M02, M10, M11, M12, M20, M22] rfl rfl
    (collectScores_cons v121000020 (collectScores_cons v120100020 (collectScores_cons v120010020 (collectScores_cons v120001020 (collectScores_cons v120000120 (collectScores_cons v120000021 collectScores_nil)))))) rfl

theorem v121000002 : readBoardAux P2 7 (⟨N1, N2, N1, N0, N0, N0, N0, N0, N2⟩ : Grid) P2 = some (ZP, some M21) :=
  readBoardAux_step P2 6 (⟨N1, N2, N1, N0, N0, N0, N0, N0, N2⟩ : Grid) P2 [M10, M11, M12, M20, M21] rfl rfl
    (collectScores_cons v121200002 (collectScores_cons v121020002 (collectScores_cons v121002002 (collectScores_cons v121000202 (collectScores_cons v121000022 collectScores_nil))))) rfl

theorem v120100002 : readBoardAux P2 7 (⟨N1, N2, N0, N1, N0, N0, N0, N0, N2⟩ : Grid) P2 = some (ZP, some M20) :=
  readBoardAux_step P2 6 (⟨N1, N2, N0, N1, N0, N0, N0, N0, N2⟩ : Grid) P2 [M02, M11, M12, M20, M21] rfl rfl
    (collectScores_cons v122100002 (collectScores_cons v120120002 (collectScores_cons v120102002 (collectScores_cons v120100202 (collectScores_cons v120100022 collectScores_nil))))) rfl

theorem v120010002 : readBoardAux P2 7 (⟨N1, N2, N0, N0, N1, N0, N0, N0, N2⟩ : Grid) P2 = some (Z0, some M02) :=
  readBoardAux_step P2 6 (⟨N1, N2, N0, N0, N1, N0, N0, N0, N2⟩ : Grid) P2 [M02, M10, M12, M20, M21] rfl rfl
    (collectScores_cons v122010002 (collectScores_cons v120210002 (collectScores_cons v120012002 (collectScores_cons v120010202 (collectScores_cons v120010022 collectScores_nil))))) rfl

theorem v120001002 : readBoardAux P2 7 (⟨N1, N2, N0, N0, N0, N1, N0, N0, N2⟩ : Grid) P2 = some (ZP, some M21) :=
  readBoardAux_step P2 6 (⟨N1, N2, N0, N0, N0, N1, N0, N0, N2⟩ : Grid) P2 [M02, M10, M11, M20, M21] rfl rfl
    (collectScores_cons v122001002 (collectScores_cons v120201002 (collectScores_cons v120021002 (collectScores_cons v120001202 (collectScores_cons v120001022 collectScores_nil))))) rfl

theorem v120000102 : readBoardAux P2 7 (⟨N1, N2, N0, N0, N0, N0, N1, N0, N2⟩ : Grid) P2 = some (Z0, some M10) :=
  readBoardAux_step P2 6 (⟨N1, N2, N0, N0, N0, N0, N1, N0, N2⟩ : Grid) P2 [M02, M10, M11, M12, M21] rfl rfl
    (collectScores_cons v122000102 (collectScores_cons v120200102 (collectScores_cons v120020102 (collectScores_cons v120002102 (collectScores_cons v120000122 collectScores_nil))))) rfl

theorem v120000012 : readBoardAux P2 7 (⟨N1, N2, N0, N0, N0, N0, N0, N1, N2⟩ : Grid) P2 = some (Z0, some M02) :=
  readBoardAux_step P2 6 (⟨N1, N2, N0, N0, N0, N0, N0, N1, N2⟩ : Grid) P2 [M02, M10, M11, M12, M20] rfl rfl
    (collectScores_cons v122000012 (collectScores_cons v120200012 (collectScores_cons v120020012 (collectScores_cons v120002012 (collectScores_cons v120000212 collectScores_nil))))) rfl

theorem v120000002 : readBoardAux P2 8 (⟨N1, N2, N0, N0, N0, N0, N0, N0, N2⟩ : Grid) P1 = some (Z0, some M11) :=
  readBoardAux_step P2 7 (⟨N1, N2, N0, N0, N0, N0, N0, N0, N2⟩ : Grid) P1 [M02, M10, M11, M12, M20, M21] rfl rfl
    (collectScores_cons v121000002 (collectScores_cons v120100002 (collectScores_cons v120010002 (collectScores_cons v120001002 (collectScores_cons v120000102 (collectScores_cons v120000012 collectScores_nil)))))) rfl

theorem v120000000 : readBoardAux P2 9 (⟨N1, N2, N0, N0, N0, N0, N0, N0, N0⟩ : Grid) P2 = some (Z0, some M10) :=
  readBoardAux_step P2 8 (⟨N1, N2, N0, N0, N0, N0, N0, N0, N0⟩ : Grid) P2 [M02, M10, M11, M12, M20, M21, M22] rfl rfl
    (collectScores_cons v122000000 (collectScores_cons v120200000 (collectScores_cons v120020000 (collectScores_cons v120002000 (collectScores_cons v120000200 (collectScores_cons v120000020 (collectScores_cons v120000002 collectScores_nil))))))) rfl

theorem t021212100 : readBoardAux P2 5 (⟨N0, N2, N1, N2, N1, N2, N1, N0, N0⟩ : Grid) P2 = some (ZM, none) :=
  rfl

theorem v021212211 : readBoardAux P2 3 (⟨N0, N2, N1, N2, N1, N2, N2, N1, N1⟩ : Grid) P2 = some (ZP, some M00) :=
  readBoardAux_step P2 2 (⟨N0, N2, N1, N2, N1, N2, N2, N1, N1⟩ : Grid) P2 [M00] rfl rfl
    (collectScores_cons t221212211 collectScores_nil) rfl

theorem v021212210 : readBoardAux P2 4 (⟨N0, N2, N1, N2, N1, N2, N2, N1, N0⟩ : Grid) P1 = some (Z0, some M00) :=
  readBoardAux_step P2 3 (⟨N0, N2, N1, N2, N1, N2, N2, N1, N0⟩ : Grid) P1 [M00, M22] rfl rfl
    (collectScores_cons v121212210 (collectScores_cons v021212211 collectScores_nil)) rfl

theorem t021212112 : readBoardAux P2 3 (⟨N0, N2, N1, N2, N1, N2, N1, N1, N2⟩ : Grid) P2 = some (ZM, none) :=
  rfl

theorem v021212012 : readBoardAux P2 4 (⟨N0, N2, N1, N2, N1, N2, N0, N1, N2⟩ : Grid) P1 = some (ZM, some M20) :=
  readBoardAux_step P2 3 (⟨N0, N2, N1, N2, N1, N2, N0, N1, N2⟩ : Grid) P1 [M00, M20] rfl rfl
    (collectScores_cons v121212012 (collectScores_cons t021212112 collectScores_nil)) rfl

theorem v021212010 : readBoardAux P2 5 (⟨N0, N2, N1, N2, N1, N2, N0, N1, N0⟩ : Grid) P2 = some (Z0, some M20) :=
  readBoardAux_step P2 4 (⟨N0, N2, N1, N2, N1, N2, N0, N1, N0⟩ : Grid) P2 [M00, M20, M22] rfl rfl
    (collectScores_cons v221212010 (collectScores_cons v021212210 (collectScores_cons v021212012 collectScores_nil))) rfl

theorem v021212201 : readBoardAux P2 4 (⟨N0, N2, N1, N2, N1, N2, N2, N0, N1⟩ : Grid) P1 = some (ZM, some M00) :=
  readBoardAux_step P2 3 (⟨N0, N2, N1, N2, N1, N2, N2, N0, N1⟩ : Grid) P1 [M00, M21] rfl rfl
    (collectScores_cons t121212201 (collectScores_cons v021212211 collectScores_nil)) rfl

theorem t021212121 : readBoardAux P2 3 (⟨N0, N2, N1, N2, N1, N2, N1, N2, N1⟩ : Grid) P2 = some (ZM, none) :=
  rfl

theorem v021212021 : readBoardAux P2 4 (⟨N0, N2, N1, N2, N1, N2, N0, N2, N1⟩ : Grid) P1 = some (ZM, some M00) :=
  readBoardAux_step P2 3 (⟨N0, N2, N1, N2, N1, N2, N0, N2, N1⟩ : Grid) P1 [M00, M20] rfl rfl
    (collectScores_cons t121212021 (collectScores_cons t021212121 collectScores_nil)) rfl

theorem v021212001 : readBoardAux P2 5 (⟨N0, N2, N1, N2, N1, N2, N0, N0, N1⟩ : Grid) P2 = some (ZM, some M00) :=
  readBoardAux_step P2 4 (⟨N0, N2, N1, N2, N1, N2, N0, N0, N1⟩ : Grid) P2 [M00, M20, M21] rfl rfl
    (collectScores_cons v221212001 (collectScores_cons v021212201 (collectScores_cons v021212021 collectScores_nil))) rfl

theorem v021212000 : readBoardAux P2 6 (⟨N0, N2, N1, N2, N1, N2, N0, N0, N0⟩ : Grid) P1 = some (ZM, some M00) :=
  readBoardAux_step P2 5 (⟨N0, N2, N1, N2, N1, N2, N0, N0, N0⟩ : Grid) P1 [M00, M20, M21, M22] rfl rfl
    (collectScores_cons v121212000 (collectScores_cons t021212100 (collectScores_cons v021212010 (collectScores_cons v021212001 collectScores_nil)))) rfl

theorem t021211221 : readBoardAux P2 3 (⟨N0, N2, N1, N2, N1, N1, N2, N2, N1⟩ : Grid) P2 = some (ZM, none) :=
  rfl

theorem v021211220 : readBoardAux P2 4 (⟨N0, N2, N1, N2, N1, N1, N2, N2, N0⟩ : Grid) P1 = some (ZM, some M22) :=
  readBoardAux_step P2 3 (⟨N0, N2, N1, N2, N1, N1, N2, N2, N0⟩ : Grid) P1 [M00, M22] rfl rfl
    (collectScores_cons v121211220 (collectScores_cons t021211221 collectScores_nil)) rfl

theorem v021211212 : readBoardAux P2 3 (⟨N0, N2, N1, N2, N1, N1, N2, N1, N2⟩ : Grid) P2 = some (ZP, some M00) :=
  readBoardAux_step P2 2 (⟨N0, N2, N1, N2, N1, N1, N2, N1, N2⟩ : Grid) P2 [M00] rfl rfl
    (collectScores_cons t221211212 collectScores_nil) rfl

theorem v021211202 : readBoardAux P2 4 (⟨N0, N2, N1, N2, N1, N1, N2, N0, N2⟩ : Grid) P1 = some (ZP, some M00) :=
  readBoardAux_step P2 3 (⟨N0, N2, N1, N2, N1, N1, N2, N0, N2⟩ : Grid) P1 [M00, M21] rfl rfl
    (collectScores_cons v121211202 (collectScores_cons v021211212 collectScores_nil)) rfl

theorem v021211200 : readBoardAux P2 5 (⟨N0, N2, N1, N2, N1, N1, N2, N0, N0⟩ : Grid) P2 = some (ZP, some M00) :=
  readBoardAux_step P2 4 (⟨N0, N2, N1, N2, N1, N1, N2, N0, N0⟩ : Grid) P2 [M00, M21, M22] rfl rfl
    (collectScores_cons t221211200 (collectScores_cons v021211220 (collectScores_cons v021211202 collectScores_nil))) rfl

theorem v021210212 : readBoardAux P2 4 (⟨N0, N2, N1, N2, N1, N0, N2, N1, N2⟩ : Grid) P1 = some (Z0, some M00) :=
  readBoardAux_step P2 3 (⟨N0, N2, N1, N2, N1, N0, N2, N1, N2⟩ : Grid) P1 [M00, M12] rfl rfl
    (collectScores_cons v121210212 (collectScores_cons v021211212 collectScores_nil)) rfl

theorem v021210210 : readBoardAux P2 5 (⟨N0, N2, N1, N2, N1, N0, N2, N1, N0⟩ : Grid) P2 = some (ZP, some M00) :=
  readBoardAux_step P2 4 (⟨N0, N2, N1, N2, N1, N0, N2, N1, N0⟩ : Grid) P2 [M00, M12, M22] rfl rfl
    (collectScores_cons t221210210 (collectScores_cons v021212210 (collectScores_cons v021210212 collectScores_nil))) rfl

theorem v021210221 : readBoardAux P2 4 (⟨N0, N2, N1, N2, N1, N0, N2, N2, N1⟩ : Grid) P1 = some (ZM, some M00) :=
  readBoardAux_step P2 3 (⟨N0, N2, N1, N2, N1, N0, N2, N2, N1⟩ : Grid) P1 [M00, M12] rfl rfl
    (collectScores_cons t121210221 (collectScores_cons t021211221 collectScores_nil)) rfl

theorem v021210201 : readBoardAux P2 5 (⟨N0, N2, N1, N2, N1, N0, N2, N0, N1⟩ : Grid) P2 = some (ZP, some M00) :=
  readBoardAux_step P2 4 (⟨N0, N2, N1, N2, N1, N0, N2, N0, N1⟩ : Grid) P2 [M00, M12, M21] rfl rfl
    (collectScores_cons t221210201 (collectScores_cons v021212201 (collectScores_cons v021210221 collectScores_nil))) rfl

theorem v021210200 : readBoardAux P2 6 (⟨N0, N2, N1, N2, N1, N0, N2, N0, N0⟩ : Grid) P1 = some (Z0, some M00) :=
  readBoardAux_step P2 5 (⟨N0, N2, N1, N2, N1, N0, N2, N0, N0⟩ : Grid) P1 [M00, M12, M21, M22] rfl rfl
    (collectScores_cons v121210200 (collectScores_cons v021211200 (collectScores_cons v021210210 (collectScores_cons v021210201 collectScores_nil)))) rfl

theorem t021211122 : readBoardAux P2 3 (⟨N0, N2, N1, N2, N1, N1, N1, N2, N2⟩ : Grid) P2 = some (ZM, none) :=
  rfl

theorem v021211022 : readBoardAux P2 4 (⟨N0, N2, N1, N2, N1, N1, N0, N2, N2⟩ : Grid) P1 = some (ZM, some M20) :=
  readBoardAux_step P2 3 (⟨N0, N2, N1, N2, N1, N1, N0, N2, N2⟩ : Grid) P1 [M00, M20] rfl rfl
    (collectScores_cons v121211022 (collectScores_cons t021211122 collectScores_nil)) rfl

theorem v021211020 : readBoardAux P2 5 (⟨N0, N2, N1, N2, N1, N1, N0, N2, N0⟩ : Grid) P2 = some (ZM, some M00) :=
  readBoardAux_step P2 4 (⟨N0, N2, N1, N2, N1, N1, N0, N2, N0⟩ : Grid) P2 [M00, M20, M22] rfl rfl
    (collectScores_cons v221211020 (collectScores_cons v021211220 (collectScores_cons v021211022 collectScores_nil))) rfl

theorem t021210120 : readBoardAux P2 5 (⟨N0, N2, N1, N2, N1, N0, N1, N2, N0⟩ : Grid) P2 = some (ZM, none) :=
  rfl

theorem v021210021 : readBoardAux P2 5 (⟨N0, N2, N1, N2, N1, N0, N0, N2, N1⟩ : Grid) P2 = some (ZM, some M00) :=
  readBoardAux_step P2 4 (⟨N0, N2, N1, N2, N1, N0, N0, N2, N1⟩ : Grid) P2 [M00, M12, M20] rfl rfl
    (collectScores_cons v221210021 (collectScores_cons v021212021 (collectScores_cons v021210221 collectScores_nil))) rfl

theorem v021210020 : readBoardAux P2 6 (⟨N0, N2, N1, N2, N1, N0, N0, N2, N0⟩ : Grid) P1 = some (ZM, some M00) :=
  readBoardAux_step P2 5 (⟨N0, N2, N1, N2, N1, N0, N0, N2, N0⟩ : Grid) P1 [M00, M12, M20, M22] rfl rfl
    (collectScores_cons v121210020 (collectScores_cons v021211020 (collectScores_cons t021210120 (collectScores_cons v021210021 collectScores_nil)))) rfl

theorem v021211002 : readBoardAux P2 5 (⟨N0, N2, N1, N2, N1, N1, N0, N0, N2⟩ : Grid) P2 = some (ZP, some M20) :=
  readBoardAux_step P2 4 (⟨N0, N2, N1, N2, N1, N1, N0, N0, N2⟩ : Grid) P2 [M00, M20, M21] rfl rfl
    (collectScores_cons v221211002 (collectScores_cons v021211202 (collectScores_cons v021211022 collectScores_nil))) rfl

theorem t021210102 : readBoardAux P2 5 (⟨N0, N2, N1, N2, N1, N0, N1, N0, N2⟩ : Grid) P2 = some (ZM, none) :=
  rfl

theorem v021210012 : readBoardAux P2 5 (⟨N0, N2, N1, N2, N1, N0, N0, N1, N2⟩ : Grid) P2 = some (Z0, some M20) :=
  readBoardAux_step P2 4 (⟨N0, N2, N1, N2, N1, N0, N0, N1, N2⟩ : Grid) P2 [M00, M12, M20] rfl rfl
    (collectScores_cons v221210012 (collectScores_cons v021212012 (collectScores_cons v021210212 collectScores_nil))) rfl

theorem v021210002 : readBoardAux P2 6 (⟨N0, N2, N1, N2, N1, N0, N0, N0, N2⟩ : Grid) P1 = some (ZM, some M20) :=
  readBoardAux_step P2 5 (⟨N0, N2, N1, N2, N1, N0, N0, N0, N2⟩ : Grid) P1 [M00, M12, M20, M21] rfl rfl
    (collectScores_cons v121210002 (collectScores_cons v021211002 (collectScores_cons t021210102 (collectScores_cons v021210012 collectScores_nil)))) rfl

theorem v021210000 : readBoardAux P2 7 (⟨N0, N2, N1, N2, N1, N0, N0, N0, N0⟩ : Grid) P2 = some (Z0, some M20) :=
  readBoardAux_step P2 6 (⟨N0, N2, N1, N2, N1, N0, N0, N0, N0⟩ : Grid) P2 [M00, M12, M20, M21, M22] rfl rfl
    (collectScores_cons v221210000 (collectScores_cons v021212000 (collectScores_cons v021210200 (collectScores_cons v021210020 (collectScores_cons v021210002 collectScores_nil))))) rfl

theorem t021221120 : readBoardAux P2 4 (⟨N0, N2, N1, N2, N2, N1, N1, N2, N0⟩ : Grid) P1 = some (ZP, none) :=
  rfl

theorem v021221112 : readBoardAux P2 3 (⟨N0, N2, N1, N2, N2, N1, N1, N1, N2⟩ : Grid) P2 = some (ZP, some M00) :=
  readBoardAux_step P2 2 (⟨N0, N2, N1, N2, N2, N1, N1, N1, N2⟩ : Grid) P2 [M00] rfl rfl
    (collectScores_cons t221221112 collectScores_nil) rfl

theorem v021221102 : readBoardAux P2 4 (⟨N0, N2, N1, N2, N2, N1, N1, N0, N2⟩ : Grid) P1 = some (ZP, some M00) :=
  readBoardAux_step P2 3 (⟨N0, N2, N1, N2, N2, N1, N1, N0, N2⟩ : Grid) P1 [M00, M21] rfl rfl
    (collectScores_cons v121221102 (collectScores_cons v021221112 collectScores_nil)) rfl

theorem v021221100 : readBoardAux P2 5 (⟨N0, N2, N1, N2, N2, N1, N1, N0, N0⟩ : Grid) P2 = some (ZP, some M21) :=
  readBoardAux_step P2 4 (⟨N0, N2, N1, N2, N2, N1, N1, N0, N0⟩ : Grid) P2 [M00, M21, M22] rfl rfl
    (collectScores_cons v221221100 (collectScores_cons t021221120 (collectScores_cons v021221102 collectScores_nil))) rfl

theorem t021221211 : readBoardAux P2 3 (⟨N0, N2, N1, N2, N2, N1, N2, N1, N1⟩ : Grid) P2 = some (ZM, none) :=
  rfl

theorem v021221210 : readBoardAux P2 4 (⟨N0, N2, N1, N2, N2, N1, N2, N1, N0⟩ : Grid) P1 = some (ZM, some M22) :=
  readBoardAux_step P2 3 (⟨N0, N2, N1, N2, N2, N1, N2, N1, N0⟩ : Grid) P1 [M00, M22] rfl rfl
    (collectScores_cons v121221210 (collectScores_cons t021221211 collectScores_nil)) rfl

theorem v021221012 : readBoardAux P2 4 (⟨N0, N2, N1, N2, N2, N1, N0, N1, N2⟩ : Grid) P1 = some (Z0, some M00) :=
  readBoardAux_step P2 3 (⟨N0, N2, N1, N2, N2, N1, N0, N1, N2⟩ : Grid) P1 [M00, M20] rfl rfl
    (collectScores_cons v121221012 (collectScores_cons v021221112 collectScores_nil)) rfl

theorem v021221010 : readBoardAux P2 5 (⟨N0, N2, N1, N2, N2, N1, N0, N1, N0⟩ : Grid) P2 = some (Z0, some M22) :=
  readBoardAux_step P2 4 (⟨N0, N2, N1, N2, N2, N1, N0, N1, N0⟩ : Grid) P2 [M00, M20, M22] rfl rfl
    (collectScores_cons v221221010 (collectScores_cons v021221210 (collectScores_cons v021221012 collectScores_nil))) rfl

theorem t021221001 : readBoardAux P2 5 (⟨N0, N2, N1, N2, N2, N1, N0, N0, N1⟩ : Grid) P2 = some (ZM, none) :=
  rfl

theorem v021221000 : readBoardAux P2 6 (⟨N0, N2, N1, N2, N2, N1, N0, N0, N0⟩ : Grid) P1 = some (ZM, some M22) :=
  readBoardAux_step P2 5 (⟨N0, N2, N1, N2, N2, N1, N0, N0, N0⟩ : Grid) P1 [M00, M20, M21, M22] rfl rfl
    (collectScores_cons v121221000 (collectScores_cons v021221100 (collectScores_cons v021221010 (collectScores_cons t021221001 collectScores_nil)))) rfl

theorem v021201212 : readBoardAux P2 4 (⟨N0, N2, N1, N2, N0, N1, N2, N1, N2⟩ : Grid) P1 = some (Z0, some M00) :=
  readBoardAux_step P2 3 (⟨N0, N2, N1, N2, N0, N1, N2, N1, N2⟩ : Grid) P1 [M00, M11] rfl rfl
    (collectScores_cons v121201212 (collectScores_cons v021211212 collectScores_nil)) rfl

theorem v021201210 : readBoardAux P2 5 (⟨N0, N2, N1, N2, N0, N1, N2, N1, N0⟩ : Grid) P2 = some (ZP, some M00) :=
  readBoardAux_step P2 4 (⟨N0, N2, N1, N2, N0, N1, N2, N1, N0⟩ : Grid) P2 [M00, M11, M22] rfl rfl
    (collectScores_cons t221201210 (collectScores_cons v021221210 (collectScores_cons v021201212 collectScores_nil))) rfl

theorem t021201201 : readBoardAux P2 5 (⟨N0, N2, N1, N2, N0, N1, N2, N0, N1⟩ : Grid) P2 = some (ZM, none) :=
  rfl

theorem v021201200 : readBoardAux P2 6 (⟨N0, N2, N1, N2, N0, N1, N2, N0, N0⟩ : Grid) P1 = some (ZM, some M22) :=
  readBoardAux_step P2 5 (⟨N0, N2, N1, N2, N0, N1, N2, N0, N0⟩ : Grid) P1 [M00, M11, M21, M22] rfl rfl
    (collectScores_cons v121201200 (collectScores_cons v021211200 (collectScores_cons v021201210 (collectScores_cons t021201201 collectScores_nil)))) rfl

theorem v021201122 : readBoardAux P2 4 (⟨N0, N2, N1, N2, N0, N1, N1, N2, N2⟩ : Grid) P1 = some (ZM, some M11) :=
  readBoardAux_step P2 3 (⟨N0, N2, N1, N2, N0, N1, N1, N2, N2⟩ : Grid) P1 [M00, M11] rfl rfl
    (collectScores_cons v121201122 (collectScores_cons t021211122 collectScores_nil)) rfl

theorem v021201120 : readBoardAux P2 5 (⟨N0, N2, N1, N2, N0, N1, N1, N2, N0⟩ : Grid) P2 = some (ZP, some M11) :=
  readBoardAux_step P2 4 (⟨N0, N2, N1, N2, N0, N1, N1, N2, N0⟩ : Grid) P2 [M00, M11, M22] rfl rfl
    (collectScores_cons v221201120 (collectScores_cons t021221120 (collectScores_cons v021201122 collectScores_nil))) rfl

theorem t021201021 : readBoardAux P2 5 (⟨N0, N2, N1, N2, N0, N1, N0, N2, N1⟩ : Grid) P2 = some (ZM, none) :=
  rfl

theorem v021201020 : readBoardAux P2 6 (⟨N0, N2, N1, N2, N0, N1, N0, N2, N0⟩ : Grid) P1 = some (ZM, some M11) :=
  readBoardAux_step P2 5 (⟨N0, N2, N1, N2, N0, N1, N0, N2, N0⟩ : Grid) P1 [M00, M11, M20, M22] rfl rfl
    (collectScores_cons v121201020 (collectScores_cons v021211020 (collectScores_cons v021201120 (collectScores_cons t021201021 collectScores_nil)))) rfl

theorem v021201102 : readBoardAux P2 5 (⟨N0, N2, N1, N2, N0, N1, N1, N0, N2⟩ : Grid) P2 = some (ZP, some M11) :=
  readBoardAux_step P2 4 (⟨N0, N2, N1, N2, N0, N1, N1, N0, N2⟩ : Grid) P2 [M00, M11, M21] rfl rfl
    (collectScores_cons v221201102 (collectScores_cons v021221102 (collectScores_cons v021201122 collectScores_nil))) rfl

theorem v021201012 : readBoardAux P2 5 (⟨N0, N2, N1, N2, N0, N1, N0, N1, N2⟩ : Grid) P2 = some (ZP, some M00) :=
  readBoardAux_step P2 4 (⟨N0, N2, N1, N2, N0, N1, N0, N1, N2⟩ : Grid) P2 [M00, M11, M20] rfl rfl
    (collectScores_cons v221201012 (collectScores_cons v021221012 (collectScores_cons v021201212 collectScores_nil))) rfl

theorem v021201002 : readBoardAux P2 6 (⟨N0, N2, N1, N2, N0, N1, N0, N0, N2⟩ : Grid) P1 = some (ZP, some M00) :=
  readBoardAux_step P2 5 (⟨N0, N2, N1, N2, N0, N1, N0, N0, N2⟩ : Grid) P1 [M00, M11, M20, M21] rfl rfl
    (collectScores_cons v121201002 (collectScores_cons v021211002 (collectScores_cons v021201102 (collectScores_cons v021201012 collectScores_nil)))) rfl

theorem v021201000 : readBoardAux P2 7 (⟨N0, N2, N1, N2, N0, N1, N0, N0, N0⟩ : Grid) P2 = some (ZP, some M22) :=
  readBoardAux_step P2 6 (⟨N0, N2, N1, N2, N0, N1, N0, N0, N0⟩ : Grid) P2 [M00, M11, M20, M21, M22] rfl rfl
    (collectScores_cons v221201000 (collectScores_cons v021221000 (collectScores_cons v021201200 (collectScores_cons v021201020 (collectScores_cons v021201002 collectScores_nil))))) rfl

theorem t021222110 : readBoardAux P2 4 (⟨N0, N2, N1, N2, N2, N2, N1, N1, N0⟩ : Grid) P1 = some (ZP, none) :=
  rfl

theorem v021220112 : readBoardAux P2 4 (⟨N0, N2, N1, N2, N2, N0, N1, N1, N2⟩ : Grid) P1 = some (ZP, some M00) :=
  readBoardAux_step P2 3 (⟨N0, N2, N1, N2, N2, N0, N1, N1, N2⟩ : Grid) P1 [M00, M12] rfl rfl
    (collectScores_cons v121220112 (collectScores_cons v021221112 collectScores_nil)) rfl

theorem v021220110 : readBoardAux P2 5 (⟨N0, N2, N1, N2, N2, N0, N1, N1, N0⟩ : Grid) P2 = some (ZP, some M12) :=
  readBoardAux_step P2 4 (⟨N0, N2, N1, N2, N2, N0, N1, N1, N0⟩ : Grid) P2 [M00, M12, M22] rfl rfl
    (collectScores_cons v221220110 (collectScores_cons t021222110 (collectScores_cons v021220112 collectScores_nil))) rfl

theorem t021222101 : readBoardAux P2 4 (⟨N0, N2, N1, N2, N2, N2, N1, N0, N1⟩ : Grid) P1 = some (ZP, none) :=
  rfl

theorem t021220121 : readBoardAux P2 4 (⟨N0, N2, N1, N2, N2, N0, N1, N2, N1⟩ : Grid) P1 = some (ZP, none) :=
  rfl

theorem v021220101 : readBoardAux P2 5 (⟨N0, N2, N1, N2, N2, N0, N1, N0, N1⟩ : Grid) P2 = some (ZP, some M12) :=
  readBoardAux_step P2 4 (⟨N0, N2, N1, N2, N2, N0, N1, N0, N1⟩ : Grid) P2 [M00, M12, M21] rfl rfl
    (collectScores_cons v221220101 (collectScores_cons t021222101 (collectScores_cons t021220121 collectScores_nil))) rfl

theorem v021220100 : readBoardAux P2 6 (⟨N0, N2, N1, N2, N2, N0, N1, N0, N0⟩ : Grid) P1 = some (ZP, some M00) :=
  readBoardAux_step P2 5 (⟨N0, N2, N1, N2, N2, N0, N1, N0, N0⟩ : Grid) P1 [M00, M12, M21, M22] rfl rfl
    (collectScores_cons v121220100 (collectScores_cons v021221100 (collectScores_cons v021220110 (collectScores_cons v021220101 collectScores_nil)))) rfl

theorem v021202112 : readBoardAux P2 4 (⟨N0, N2, N1, N2, N0, N2, N1, N1, N2⟩ : Grid) P1 = some (ZM, some M11) :=
  readBoardAux_step P2 3 (⟨N0, N2, N1, N2, N0, N2, N1, N1, N2⟩ : Grid) P1 [M00, M11] rfl rfl
    (collectScores_cons v121202112 (collectScores_cons t021212112 collectScores_nil)) rfl

theorem v021202110 : readBoardAux P2 5 (⟨N0, N2, N1, N2, N0, N2, N1, N1, N0⟩ : Grid) P2 = some (ZP, some M11) :=
  readBoardAux_step P2 4 (⟨N0, N2, N1, N2, N0, N2, N1, N1, N0⟩ : Grid) P2 [M00, M11, M22] rfl rfl
    (collectScores_cons v221202110 (collectScores_cons t021222110 (collectScores_cons v021202112 collectScores_nil))) rfl

theorem v021202121 : readBoardAux P2 4 (⟨N0, N2, N1, N2, N0, N2, N1, N2, N1⟩ : Grid) P1 = some (ZM, some M11) :=
  readBoardAux_step P2 3 (⟨N0, N2, N1, N2, N0, N2, N1, N2, N1⟩ : Grid) P1 [M00, M11] rfl rfl
    (collectScores_cons v121202121 (collectScores_cons t021212121 collectScores_nil)) rfl

theorem v021202101 : readBoardAux P2 5 (⟨N0, N2, N1, N2, N0, N2, N1, N0, N1⟩ : Grid) P2 = some (ZP, some M11) :=
  readBoardAux_step P2 4 (⟨N0, N2, N1, N2, N0, N2, N1, N0, N1⟩ : Grid) P2 [M00, M11, M21] rfl rfl
    (collectScores_cons v221202101 (collectScores_cons t021222101 (collectScores_cons v021202121 collectScores_nil))) rfl

theorem v021202100 : readBoardAux P2 6 (⟨N0, N2, N1, N2, N0, N2, N1, N0, N0⟩ : Grid) P1 = some (ZM, some M11) :=
  readBoardAux_step P2 5 (⟨N0, N2, N1, N2, N0, N2, N1, N0, N0⟩ : Grid) P1 [M00, M11, M21, M22] rfl rfl
    (collectScores_cons v121202100 (collectScores_cons t021212100 (collectScores_cons v021202110 (collectScores_cons v021202101 collectScores_nil)))) rfl

theorem v021200121 : readBoardAux P2 5 (⟨N0, N2, N1, N2, N0, N0, N1, N2, N1⟩ : Grid) P2 = some (ZP, some M11) :=
  readBoardAux_step P2 4 (⟨N0, N2, N1, N2, N0, N0, N1, N2, N1⟩ : Grid) P2 [M00, M11, M12] rfl rfl
    (collectScores_cons v221200121 (collectScores_cons t021220121 (collectScores_cons v021202121 collectScores_nil))) rfl

theorem v021200120 : readBoardAux P2 6 (⟨N0, N2, N1, N2, N0, N0, N1, N2, N0⟩ : Grid) P1 = some (ZM, some M11) :=
  readBoardAux_step P2 5 (⟨N0, N2, N1, N2, N0, N0, N1, N2, N0⟩ : Grid) P1 [M00, M11, M12, M22] rfl rfl
    (collectScores_cons v121200120 (collectScores_cons t021210120 (collectScores_cons v021201120 (collectScores_cons v021200121 collectScores_nil)))) rfl

theorem v021200112 : readBoardAux P2 5 (⟨N0, N2, N1, N2, N0, N0, N1, N1, N2⟩ : Grid) P2 = some (ZP, some M11) :=
  readBoardAux_step P2 4 (⟨N0, N2, N1, N2, N0, N0, N1, N1, N2⟩ : Grid) P2 [M00, M11, M12] rfl rfl
    (collectScores_cons v221200112 (collectScores_cons v021220112 (collectScores_cons v021202112 collectScores_nil))) rfl

theorem v021200102 : readBoardAux P2 6 (⟨N0, N2, N1, N2, N0, N0, N1, N0, N2⟩ : Grid) P1 = some (ZM, some M11) :=
  readBoardAux_step P2 5 (⟨N0, N2, N1, N2, N0, N0, N1, N0, N2⟩ : Grid) P1 [M00, M11, M12, M21] rfl rfl
    (collectScores_cons v121200102 (collectScores_cons t021210102 (collectScores_cons v021201102 (collectScores_cons v021200112 collectScores_nil)))) rfl

theorem v021200100 : readBoardAux P2 7 (⟨N0, N2, N1, N2, N0, N0, N1, N0, N0⟩ : Grid) P2 = some (ZP, some M11) :=
  readBoardAux_step P2 6 (⟨N0, N2, N1, N2, N0, N0, N1, N0, N0⟩ : Grid) P2 [M00, M11, M12, M21, M22] rfl rfl
    (collectScores_cons v221200100 (collectScores_cons v021220100 (collectScores_cons v021202100 (collectScores_cons v021200120 (collectScores_cons v021200102 collectScores_nil))))) rfl

theorem t021222011 : readBoardAux P2 4 (⟨N0, N2, N1, N2, N2, N2, N0, N1, N1⟩ : Grid) P1 = some (ZP, none) :=
  rfl

theorem v021220211 : readBoardAux P2 4 (⟨N0, N2, N1, N2, N2, N0, N2, N1, N1⟩ : Grid) P1 = some (ZM, some M12) :=
  readBoardAux_step P2 3 (⟨N0, N2, N1, N2, N2, N0, N2, N1, N1⟩ : Grid) P1 [M00, M12] rfl rfl
    (collectScores_cons v121220211 (collectScores_cons t021221211 collectScores_nil)) rfl

theorem v021220011 : readBoardAux P2 5 (⟨N0, N2, N1, N2, N2, N0, N0, N1, N1⟩ : Grid) P2 = some (ZP, some M12) :=
  readBoardAux_step P2 4 (⟨N0, N2, N1, N2, N2, N0, N0, N1, N1⟩ : Grid) P2 [M00, M12, M20] rfl rfl
    (collectScores_cons v221220011 (collectScores_cons t021222011 (collectScores_cons v021220211 collectScores_nil))) rfl

theorem v021220010 : readBoardAux P2 6 (⟨N0, N2, N1, N2, N2, N0, N0, N1, N0⟩ : Grid) P1 = some (Z0, some M12) :=
  readBoardAux_step P2 5 (⟨N0, N2, N1, N2, N2, N0, N0, N1, N0⟩ : Grid) P1 [M00, M12, M20, M22] rfl rfl
    (collectScores_cons v121220010 (collectScores_cons v021221010 (collectScores_cons v021220110 (collectScores_cons v021220011 collectScores_nil)))) rfl

theorem v021202211 : readBoardAux P2 4 (⟨N0, N2, N1, N2, N0, N2, N2, N1, N1⟩ : Grid) P1 = some (ZP, some M00) :=
  readBoardAux_step P2 3 (⟨N0, N2, N1, N2, N0, N2, N2, N1, N1⟩ : Grid) P1 [M00, M11] rfl rfl
    (collectScores_cons v121202211 (collectScores_cons v021212211 collectScores_nil)) rfl

theorem v021202011 : readBoardAux P2 5 (⟨N0, N2, N1, N2, N0, N2, N0, N1, N1⟩ : Grid) P2 = some (ZP, some M11) :=
  readBoardAux_step P2 4 (⟨N0, N2, N1, N2, N0, N2, N0, N1, N1⟩ : Grid) P2 [M00, M11, M20] rfl rfl
    (collectScores_cons v221202011 (collectScores_cons t021222011 (collectScores_cons v021202211 collectScores_nil))) rfl

theorem v021202010 : readBoardAux P2 6 (⟨N0, N2, N1, N2, N0, N2, N0, N1, N0⟩ : Grid) P1 = some (Z0, some M11) :=
  readBoardAux_step P2 5 (⟨N0, N2, N1, N2, N0, N2, N0, N1, N0⟩ : Grid) P1 [M00, M11, M20, M22] rfl rfl
    (collectScores_cons v121202010 (collectScores_cons v021212010 (collectScores_cons v021202110 (collectScores_cons v021202011 collectScores_nil)))) rfl

theorem v021200211 : readBoardAux P2 5 (⟨N0, N2, N1, N2, N0, N0, N2, N1, N1⟩ : Grid) P2 = some (ZP, some M00) :=
  readBoardAux_step P2 4 (⟨N0, N2, N1, N2, N0, N0, N2, N1, N1⟩ : Grid) P2 [M00, M11, M12] rfl rfl
    (collectScores_cons t221200211 (collectScores_cons v021220211 (collectScores_cons v021202211 collectScores_nil))) rfl

theorem v021200210 : readBoardAux P2 6 (⟨N0, N2, N1, N2, N0, N0, N2, N1, N0⟩ : Grid) P1 = some (Z0, some M00) :=
  readBoardAux_step P2 5 (⟨N0, N2, N1, N2, N0, N0, N2, N1, N0⟩ : Grid) P1 [M00, M11, M12, M22] rfl rfl
    (collectScores_cons v121200210 (collectScores_cons v021210210 (collectScores_cons v021201210 (collectScores_cons v021200211 collectScores_nil)))) rfl

theorem v021200012 : readBoardAux P2 6 (⟨N0, N2, N1, N2, N0, N0, N0, N1, N2⟩ : Grid) P1 = some (Z0, some M00) :=
  readBoardAux_step P2 5 (⟨N0, N2, N1, N2, N0, N0, N0, N1, N2⟩ : Grid) P1 [M00, M11, M12, M20] rfl rfl
    (collectScores_cons v121200012 (collectScores_cons v021210012 (collectScores_cons v021201012 (collectScores_cons v021200112 collectScores_nil)))) rfl

theorem v021200010 : readBoardAux P2 7 (⟨N0, N2, N1, N2, N0, N0, N0, N1, N0⟩ : Grid) P2 = some (Z0, some M11) :=
  readBoardAux_step P2 6 (⟨N0, N2, N1, N2, N0, N0, N0, N1, N0⟩ : Grid) P2 [M00, M11, M12, M20, M22] rfl rfl
    (collectScores_cons v221200010 (collectScores_cons v021220010 (collectScores_cons v021202010 (collectScores_cons v021200210 (collectScores_cons v021200012 collectScores_nil))))) rfl

theorem v021220001 : readBoardAux P2 6 (⟨N0, N2, N1, N2, N2, N0, N0, N0, N1⟩ : Grid) P1 = some (ZM, some M12) :=
  readBoardAux_step P2 5 (⟨N0, N2, N1, N2, N2, N0, N0, N0, N1⟩ : Grid) P1 [M00, M12, M20, M21] rfl rfl
    (collectScores_cons v121220001 (collectScores_cons t021221001 (collectScores_cons v021220101 (collectScores_cons v021220011 collectScores_nil)))) rfl

theorem v021202001 : readBoardAux P2 6 (⟨N0, N2, N1, N2, N0, N2, N0, N0, N1⟩ : Grid) P1 = some (ZM, some M11) :=
  readBoardAux_step P2 5 (⟨N0, N2, N1, N2, N0, N2, N0, N0, N1⟩ : Grid) P1 [M00, M11, M20, M21] rfl rfl
    (collectScores_cons v121202001 (collectScores_cons v021212001 (collectScores_cons v021202101 (collectScores_cons v021202011 collectScores_nil)))) rfl

theorem v021200201 : readBoardAux P2 6 (⟨N0, N2, N1, N2, N0, N0, N2, N0, N1⟩ : Grid) P1 = some (ZM, some M00) :=
  readBoardAux_step P2 5 (⟨N0, N2, N1, N2, N0, N0, N2, N0, N1⟩ : Grid) P1 [M00, M11, M12, M21] rfl rfl
    (collectScores_cons v121200201 (collectScores_cons v021210201 (collectScores_cons t021201201 (collectScores_cons v021200211 collectScores_nil)))) rfl

theorem v021200021 : readBoardAux P2 6 (⟨N0, N2, N1, N2, N0, N0, N0, N2, N1⟩ : Grid) P1 = some (ZM, some M11) :=
  readBoardAux_step P2 5 (⟨N0, N2, N1, N2, N0, N0, N0, N2, N1⟩ : Grid) P1 [M00, M11, M12, M20] rfl rfl
    (collectScores_cons v121200021 (collectScores_cons v021210021 (collectScores_cons t021201021 (collectScores_cons v021200121 collectScores_nil)))) rfl

theorem v021200001 : readBoardAux P2 7 (⟨N0, N2, N1, N2, N0, N0, N0, N0, N1⟩ : Grid) P2 = some (ZM, some M00) :=
  readBoardAux_step P2 6 (⟨N0, N2, N1, N2, N0, N0, N0, N0, N1⟩ : Grid) P2 [M00, M11, M12, M20, M21] rfl rfl
    (collectScores_cons v221200001 (collectScores_cons v021220001 (collectScores_cons v021202001 (collectScores_cons v021200201 (collectScores_cons v021200021 collectScores_nil))))) rfl

theorem v021200000 : readBoardAux P2 8 (⟨N0, N2, N1, N2, N0, N0, N0, N0, N0⟩ : Grid) P1 = some (ZM, some M22) :=
  readBoardAux_step P2 7 (⟨N0, N2, N1, N2, N0, N0, N0, N0, N0⟩ : Grid) P1 [M00, M11, M12, M20, M21, M22] rfl rfl
    (collectScores_cons v121200000 (collectScores_cons v021210000 (collectScores_cons v021201000 (collectScores_cons v021200100 (collectScores_cons v021200010 (collectScores_cons v021200001 collectScores_nil)))))) rfl

theorem t021122120 : readBoardAux P2 4 (⟨N0, N2, N1, N1, N2, N2, N1, N2, N0⟩ : Grid) P1 = some (ZP, none) :=
  rfl

theorem v021122112 : readBoardAux P2 3 (⟨N0, N2, N1, N1, N2, N2, N1, N1, N2⟩ : Grid) P2 = some (ZP, some M00) :=
  readBoardAux_step P2 2 (⟨N0, N2, N1, N1, N2, N2, N1, N1, N2⟩ : Grid) P2 [M00] rfl rfl
    (collectScores_cons t221122112 collectScores_nil) rfl

theorem v021122102 : readBoardAux P2 4 (⟨N0, N2, N1, N1, N2, N2, N1, N0, N2⟩ : Grid) P1 = some (ZM, some M00) :=
  readBoardAux_step P2 3 (⟨N0, N2, N1, N1, N2, N2, N1, N0, N2⟩ : Grid) P1 [M00, M21] rfl rfl
    (collectScores_cons t121122102 (collectScores_cons v021122112 collectScores_nil)) rfl

theorem v021122100 : readBoardAux P2 5 (⟨N0, N2, N1, N1, N2, N2, N1, N0, N0⟩ : Grid) P2 = some (ZP, some M00) :=
  readBoardAux_step P2 4 (⟨N0, N2, N1, N1, N2, N2, N1, N0, N0⟩ : Grid) P2 [M00, M21, M22] rfl rfl
    (collectScores_cons v221122100 (collectScores_cons t021122120 (collectScores_cons v021122102 collectScores_nil))) rfl

theorem v021122211 : readBoardAux P2 3 (⟨N0, N2, N1, N1, N2, N2, N2, N1, N1⟩ : Grid) P2 = some (Z0, some M00) :=
  readBoardAux_step P2 2 (⟨N0, N2, N1, N1, N2, N2, N2, N1, N1⟩ : Grid) P2 [M00] rfl rfl
    (collectScores_cons t221122211 collectScores_nil) rfl

theorem v021122210 : readBoardAux P2 4 (⟨N0, N2, N1, N1, N2, N2, N2, N1, N0⟩ : Grid) P1 = some (Z0, some M00) :=
  readBoardAux_step P2 3 (⟨N0, N2, N1, N1, N2, N2, N2, N1, N0⟩ : Grid) P1 [M00, M22] rfl rfl
    (collectScores_cons v121122210 (collectScores_cons v021122211 collectScores_nil)) rfl

theorem v021122012 : readBoardAux P2 4 (⟨N0, N2, N1, N1, N2, N2, N0, N1, N2⟩ : Grid) P1 = some (Z0, some M00) :=
  readBoardAux_step P2 3 (⟨N0, N2, N1, N1, N2, N2, N0, N1, N2⟩ : Grid) P1 [M00, M20] rfl rfl
    (collectScores_cons v121122012 (collectScores_cons v021122112 collectScores_nil)) rfl

theorem v021122010 : readBoardAux P2 5 (⟨N0, N2, N1, N1, N2, N2, N0, N1, N0⟩ : Grid) P2 = some (Z0, some M00) :=
  readBoardAux_step P2 4 (⟨N0, N2, N1, N1, N2, N2, N0, N1, N0⟩ : Grid) P2 [M00, M20, M22] rfl rfl
    (collectScores_cons v221122010 (collectScores_cons v021122210 (collectScores_cons v021122012 collectScores_nil))) rfl

theorem v021122201 : readBoardAux P2 4 (⟨N0, N2, N1, N1, N2, N2, N2, N0, N1⟩ : Grid) P1 = some (Z0, some M21) :=
  readBoardAux_step P2 3 (⟨N0, N2, N1, N1, N2, N2, N2, N0, N1⟩ : Grid) P1 [M00, M21] rfl rfl
    (collectScores_cons v121122201 (collectScores_cons v021122211 collectScores_nil)) rfl

theorem t021122021 : readBoardAux P2 4 (⟨N0, N2, N1, N1, N2, N2, N0, N2, N1⟩ : Grid) P1 = some (ZP, none) :=
  rfl

theorem v021122001 : readBoardAux P2 5 (⟨N0, N2, N1, N1, N2, N2, N0, N0, N1⟩ : Grid) P2 = some (ZP, some M21) :=
  readBoardAux_step P2 4 (⟨N0, N2, N1, N1, N2, N2, N0, N0, N1⟩ : Grid) P2 [M00, M20, M21] rfl rfl
    (collectScores_cons v221122001 (collectScores_cons v021122201 (collectScores_cons t021122021 collectScores_nil))) rfl

theorem v021122000 : readBoardAux P2 6 (⟨N0, N2, N1, N1, N2, N2, N0, N0, N0⟩ : Grid) P1 = some (Z0, some M21) :=
  readBoardAux_step P2 5 (⟨N0, N2, N1, N1, N2, N2, N0, N0, N0⟩ : Grid) P1 [M00, M20, M21, M22] rfl rfl
    (collectScores_cons v121122000 (collectScores_cons v021122100 (collectScores_cons v021122010 (collectScores_cons v021122001 collectScores_nil)))) rfl

theorem t021121220 : readBoardAux P2 4 (⟨N0, N2, N1, N1, N2, N1, N2, N2, N0⟩ : Grid) P1 = some (ZP, none) :=
  rfl

theorem v021121212 : readBoardAux P2 3 (⟨N0, N2, N1, N1, N2, N1, N2, N1, N2⟩ : Grid) P2 = some (ZP, some M00) :=
  readBoardAux_step P2 2 (⟨N0, N2, N1, N1, N2, N1, N2, N1, N2⟩ : Grid) P2 [M00] rfl rfl
    (collectScores_cons t221121212 collectScores_nil) rfl

theorem v021121202 : readBoardAux P2 4 (⟨N0, N2, N1, N1, N2, N1, N2, N0, N2⟩ : Grid) P1 = some (ZP, some M00) :=
  readBoardAux_step P2 3 (⟨N0, N2, N1, N1, N2, N1, N2, N0, N2⟩ : Grid) P1 [M00, M21] rfl rfl
    (collectScores_cons v121121202 (collectScores_cons v021121212 collectScores_nil)) rfl

theorem v021121200 : readBoardAux P2 5 (⟨N0, N2, N1, N1, N2, N1, N2, N0, N0⟩ : Grid) P2 = some (ZP, some M21) :=
  readBoardAux_step P2 4 (⟨N0, N2, N1, N1, N2, N1, N2, N0, N0⟩ : Grid) P2 [M00, M21, M22] rfl rfl
    (collectScores_cons v221121200 (collectScores_cons t021121220 (collectScores_cons v021121202 collectScores_nil))) rfl

theorem v021120212 : readBoardAux P2 4 (⟨N0, N2, N1, N1, N2, N0, N2, N1, N2⟩ : Grid) P1 = some (Z0, some M00) :=
  readBoardAux_step P2 3 (⟨N0, N2, N1, N1, N2, N0, N2, N1, N2⟩ : Grid) P1 [M00, M12] rfl rfl
    (collectScores_cons v121120212 (collectScores_cons v021121212 collectScores_nil)) rfl

theorem v021120210 : readBoardAux P2 5 (⟨N0, N2, N1, N1, N2, N0, N2, N1, N0⟩ : Grid) P2 = some (Z0, some M00) :=
  readBoardAux_step P2 4 (⟨N0, N2, N1, N1, N2, N0, N2, N1, N0⟩ : Grid) P2 [M00, M12, M22] rfl rfl
    (collectScores_cons v221120210 (collectScores_cons v021122210 (collectScores_cons v021120212 collectScores_nil))) rfl

theorem t021120221 : readBoardAux P2 4 (⟨N0, N2, N1, N1, N2, N0, N2, N2, N1⟩ : Grid) P1 = some (ZP, none) :=
  rfl

theorem v021120201 : readBoardAux P2 5 (⟨N0, N2, N1, N1, N2, N0, N2, N0, N1⟩ : Grid) P2 = some (ZP, some M21) :=
  readBoardAux_step P2 4 (⟨N0, N2, N1, N1, N2, N0, N2, N0, N1⟩ : Grid) P2 [M00, M12, M21] rfl rfl
    (collectScores_cons v221120201 (collectScores_cons v021122201 (collectScores_cons t021120221 collectScores_nil))) rfl

theorem v021120200 : readBoardAux P2 6 (⟨N0, N2, N1, N1, N2, N0, N2, N0, N0⟩ : Grid) P1 = some (Z0, some M21) :=
  readBoardAux_step P2 5 (⟨N0, N2, N1, N1, N2, N0, N2, N0, N0⟩ : Grid) P1 [M00, M12, M21, M22] rfl rfl
    (collectScores_cons v121120200 (collectScores_cons v021121200 (collectScores_cons v021120210 (collectScores_cons v021120201 collectScores_nil)))) rfl

theorem t021120020 : readBoardAux P2 6 (⟨N0, N2, N1, N1, N2, N0, N0, N2, N0⟩ : Grid) P1 = some (ZP, none) :=
  rfl

theorem t021121022 : readBoardAux P2 4 (⟨N0, N2, N1, N1, N2, N1, N0, N2, N2⟩ : Grid) P1 = some (ZP, none) :=
  rfl

theorem v021121002 : readBoardAux P2 5 (⟨N0, N2, N1, N1, N2, N1, N0, N0, N2⟩ : Grid) P2 = some (ZP, some M00) :=
  readBoardAux_step P2 4 (⟨N0, N2, N1, N1, N2, N1, N0, N0, N2⟩ : Grid) P2 [M00, M20, M21] rfl rfl
    (collectScores_cons t221121002 (collectScores_cons v021121202 (collectScores_cons t021121022 collectScores_nil))) rfl

theorem t021120122 : readBoardAux P2 4 (⟨N0, N2, N1, N1, N2, N0, N1, N2, N2⟩ : Grid) P1 = some (ZP, none) :=
  rfl

theorem v021120102 : readBoardAux P2 5 (⟨N0, N2, N1, N1, N2, N0, N1, N0, N2⟩ : Grid) P2 = some (ZP, some M00) :=
  readBoardAux_step P2 4 (⟨N0, N2, N1, N1, N2, N0, N1, N0, N2⟩ : Grid) P2 [M00, M12, M21] rfl rfl
    (collectScores_cons t221120102 (collectScores_cons v021122102 (collectScores_cons t021120122 collectScores_nil))) rfl

theorem v021120012 : readBoardAux P2 5 (⟨N0, N2, N1, N1, N2, N0, N0, N1, N2⟩ : Grid) P2 = some (ZP, some M00) :=
  readBoardAux_step P2 4 (⟨N0, N2, N1, N1, N2, N0, N0, N1, N2⟩ : Grid) P2 [M00, M12, M20] rfl rfl
    (collectScores_cons t221120012 (collectScores_cons v021122012 (collectScores_cons v021120212 collectScores_nil))) rfl

theorem v021120002 : readBoardAux P2 6 (⟨N0, N2, N1, N1, N2, N0, N0, N0, N2⟩ : Grid) P1 = some (ZP, some M00) :=
  readBoardAux_step P2 5 (⟨N0, N2, N1, N1, N2, N0, N0, N0, N2⟩ : Grid) P1 [M00, M12, M20, M21] rfl rfl
    (collectScores_cons v121120002 (collectScores_cons v021121002 (collectScores_cons v021120102 (collectScores_cons v021120012 collectScores_nil)))) rfl

theorem v021120000 : readBoardAux P2 7 (⟨N0, N2, N1, N1, N2, N0, N0, N0, N0⟩ : Grid) P2 = some (ZP, some M00) :=
  readBoardAux_step P2 6 (⟨N0, N2, N1, N1, N2, N0, N0, N0, N0⟩ : Grid) P2 [M00, M12, M20, M21, M22] rfl rfl
    (collectScores_cons v221120000 (collectScores_cons v021122000 (collectScores_cons v021120200 (collectScores_cons t021120020 (collectScores_cons v021120002 collectScores_nil))))) rfl

theorem v021021212 : readBoardAux P2 4 (⟨N0, N2, N1, N0, N2, N1, N2, N1, N2⟩ : Grid) P1 = some (Z0, some M00) :=
  readBoardAux_step P2 3 (⟨N0, N2, N1, N0, N2, N1, N2, N1, N2⟩ : Grid) P1 [M00, M10] rfl rfl
    (collectScores_cons v121021212 (collectScores_cons v021121212 collectScores_nil)) rfl

theorem v021021210 : readBoardAux P2 5 (⟨N0, N2, N1, N0, N2, N1, N2, N1, N0⟩ : Grid) P2 = some (Z0, some M22) :=
  readBoardAux_step P2 4 (⟨N0, N2, N1, N0, N2, N1, N2, N1, N0⟩ : Grid) P2 [M00, M10, M22] rfl rfl
    (collectScores_cons v221021210 (collectScores_cons v021221210 (collectScores_cons v021021212 collectScores_nil))) rfl

theorem t021021201 : readBoardAux P2 5 (⟨N0, N2, N1, N0, N2, N1, N2, N0, N1⟩ : Grid) P2 = some (ZM, none) :=
  rfl

theorem v021021200 : readBoardAux P2 6 (⟨N0, N2, N1, N0, N2, N1, N2, N0, N0⟩ : Grid) P1 = some (ZM, some M22) :=
  readBoardAux_step P2 5 (⟨N0, N2, N1, N0, N2, N1, N2, N0, N0⟩ : Grid) P1 [M00, M10, M21, M22] rfl rfl
    (collectScores_cons v121021200 (collectScores_cons v021121200 (collectScores_cons v021021210 (collectScores_cons t021021201 collectScores_nil)))) rfl

theorem t021021020 : readBoardAux P2 6 (⟨N0, N2, N1, N0, N2, N1, N0, N2, N0⟩ : Grid) P1 = some (ZP, none) :=
  rfl

theorem t021021122 : readBoardAux P2 4 (⟨N0, N2, N1, N0, N2, N1, N1, N2, N2⟩ : Grid) P1 = some (ZP, none) :=
  rfl

theorem v021021102 : readBoardAux P2 5 (⟨N0, N2, N1, N0, N2, N1, N1, N0, N2⟩ : Grid) P2 = some (ZP, some M00) :=
  readBoardAux_step P2 4 (⟨N0, N2, N1, N0, N2, N1, N1, N0, N2⟩ : Grid) P2 [M00, M10, M21] rfl rfl
    (collectScores_cons t221021102 (collectScores_cons v021221102 (collectScores_cons t021021122 collectScores_nil))) rfl

theorem v021021012 : readBoardAux P2 5 (⟨N0, N2, N1, N0, N2, N1, N0, N1, N2⟩ : Grid) P2 = some (ZP, some M00) :=
  readBoardAux_step P2 4 (⟨N0, N2, N1, N0, N2, N1, N0, N1, N2⟩ : Grid) P2 [M00, M10, M20] rfl rfl
    (collectScores_cons t221021012 (collectScores_cons v021221012 (collectScores_cons v021021212 collectScores_nil))) rfl

theorem v021021002 : readBoardAux P2 6 (⟨N0, N2, N1, N0, N2, N1, N0, N0, N2⟩ : Grid) P1 = some (ZP, some M00) :=
  readBoardAux_step P2 5 (⟨N0, N2, N1, N0, N2, N1, N0, N0, N2⟩ : Grid) P1 [M00, M10, M20, M21] rfl rfl
    (collectScores_cons v121021002 (collectScores_cons v021121002 (collectScores_cons v021021102 (collectScores_cons v021021012 collectScores_nil)))) rfl

theorem v021021000 : readBoardAux P2 7 (⟨N0, N2, N1, N0, N2, N1, N0, N0, N0⟩ : Grid) P2 = some (ZP, some M21) :=
  readBoardAux_step P2 6 (⟨N0, N2, N1, N0, N2, N1, N0, N0, N0⟩ : Grid) P2 [M00, M10, M20, M21, M22] rfl rfl
    (collectScores_cons v221021000 (collectScores_cons v021221000 (collectScores_cons v021021200 (collectScores_cons t021021020 (collectScores_cons v021021002 collectScores_nil))))) rfl

theorem v021022112 : readBoardAux P2 4 (⟨N0, N2, N1, N0, N2, N2, N1, N1, N2⟩ : Grid) P1 = some (ZP, some M00) :=
  readBoardAux_step P2 3 (⟨N0, N2, N1, N0, N2, N2, N1, N1, N2⟩ : Grid) P1 [M00, M10] rfl rfl
    (collectScores_cons v121022112 (collectScores_cons v021122112 collectScores_nil)) rfl

theorem v021022110 : readBoardAux P2 5 (⟨N0, N2, N1, N0, N2, N2, N1, N1, N0⟩ : Grid) P2 = some (ZP, some M10) :=
  readBoardAux_step P2 4 (⟨N0, N2, N1, N0, N2, N2, N1, N1, N0⟩ : Grid) P2 [M00, M10, M22] rfl rfl
    (collectScores_cons v221022110 (collectScores_cons t021222110 (collectScores_cons v021022112 collectScores_nil))) rfl

theorem t021022121 : readBoardAux P2 4 (⟨N0, N2, N1, N0, N2, N2, N1, N2, N1⟩ : Grid) P1 = some (ZP, none) :=
  rfl

theorem v021022101 : readBoardAux P2 5 (⟨N0, N2, N1, N0, N2, N2, N1, N0, N1⟩ : Grid) P2 = some (ZP, some M10) :=
  readBoardAux_step P2 4 (⟨N0, N2, N1, N0, N2, N2, N1, N0, N1⟩ : Grid) P2 [M00, M10, M21] rfl rfl
    (collectScores_cons v221022101 (collectScores_cons t021222101 (collectScores_cons t021022121 collectScores_nil))) rfl

theorem v021022100 : readBoardAux P2 6 (⟨N0, N2, N1, N0, N2, N2, N1, N0, N0⟩ : Grid) P1 = some (ZP, some M00) :=
  readBoardAux_step P2 5 (⟨N0, N2, N1, N0, N2, N2, N1, N0, N0⟩ : Grid) P1 [M00, M10, M21, M22] rfl rfl
    (collectScores_cons v121022100 (collectScores_cons v021122100 (collectScores_cons v021022110 (collectScores_cons v021022101 collectScores_nil)))) rfl

theorem t021020120 : readBoardAux P2 6 (⟨N0, N2, N1, N0, N2, N0, N1, N2, N0⟩ : Grid) P1 = some (ZP, none) :=
  rfl

theorem v021020112 : readBoardAux P2 5 (⟨N0, N2, N1, N0, N2, N0, N1, N1, N2⟩ : Grid) P2 = some (ZP, some M00) :=
  readBoardAux_step P2 4 (⟨N0, N2, N1, N0, N2, N0, N1, N1, N2⟩ : Grid) P2 [M00, M10, M12] rfl rfl
    (collectScores_cons t221020112 (collectScores_cons v021220112 (collectScores_cons v021022112 collectScores_nil))) rfl

theorem v021020102 : readBoardAux P2 6 (⟨N0, N2, N1, N0, N2, N0, N1, N0, N2⟩ : Grid) P1 = some (ZP, some M00) :=
  readBoardAux_step P2 5 (⟨N0, N2, N1, N0, N2, N0, N1, N0, N2⟩ : Grid) P1 [M00, M10, M12, M21] rfl rfl
    (collectScores_cons v121020102 (collectScores_cons v021120102 (collectScores_cons v021021102 (collectScores_cons v021020112 collectScores_nil)))) rfl

theorem v021020100 : readBoardAux P2 7 (⟨N0, N2, N1, N0, N2, N0, N1, N0, N0⟩ : Grid) P2 = some (ZP, some M00) :=
  readBoardAux_step P2 6 (⟨N0, N2, N1, N0, N2, N0, N1, N0, N0⟩ : Grid) P2 [M00, M10, M12, M21, M22] rfl rfl
    (collectScores_cons v221020100 (collectScores_cons v021220100 (collectScores_cons v021022100 (collectScores_cons t021020120 (collectScores_cons v021020102 collectScores_nil))))) rfl

theorem v021022211 : readBoardAux P2 4 (⟨N0, N2, N1, N0, N2, N2, N2, N1, N1⟩ : Grid) P1 = some (Z0, some M10) :=
  readBoardAux_step P2 3 (⟨N0, N2, N1, N0, N2, N2, N2, N1, N1⟩ : Grid) P1 [M00, M10] rfl rfl
    (collectScores_cons v121022211 (collectScores_cons v021122211 collectScores_nil)) rfl

theorem v021022011 : readBoardAux P2 5 (⟨N0, N2, N1, N0, N2, N2, N0, N1, N1⟩ : Grid) P2 = some (ZP, some M10) :=
  readBoardAux_step P2 4 (⟨N0, N2, N1, N0, N2, N2, N0, N1, N1⟩ : Grid) P2 [M00, M10, M20] rfl rfl
    (collectScores_cons v221022011 (collectScores_cons t021222011 (collectScores_cons v021022211 collectScores_nil))) rfl

theorem v021022010 : readBoardAux P2 6 (⟨N0, N2, N1, N0, N2, N2, N0, N1, N0⟩ : Grid) P1 = some (Z0, some M10) :=
  readBoardAux_step P2 5 (⟨N0, N2, N1, N0, N2, N2, N0, N1, N0⟩ : Grid) P1 [M00, M10, M20, M22] rfl rfl
    (collectScores_cons v121022010 (collectScores_cons v021122010 (collectScores_cons v021022110 (collectScores_cons v021022011 collectScores_nil)))) rfl

theorem v021020211 : readBoardAux P2 5 (⟨N0, N2, N1, N0, N2, N0, N2, N1, N1⟩ : Grid) P2 = some (Z0, some M12) :=
  readBoardAux_step P2 4 (⟨N0, N2, N1, N0, N2, N0, N2, N1, N1⟩ : Grid) P2 [M00, M10, M12] rfl rfl
    (collectScores_cons v221020211 (collectScores_cons v021220211 (collectScores_cons v021022211 collectScores_nil))) rfl

theorem v021020210 : readBoardAux P2 6 (⟨N0, N2, N1, N0, N2, N0, N2, N1, N0⟩ : Grid) P1 = some (Z0, some M00) :=
  readBoardAux_step P2 5 (⟨N0, N2, N1, N0, N2, N0, N2, N1, N0⟩ : Grid) P1 [M00, M10, M12, M22] rfl rfl
    (collectScores_cons v121020210 (collectScores_cons v021120210 (collectScores_cons v021021210 (collectScores_cons v021020211 collectScores_nil)))) rfl

theorem v021020012 : readBoardAux P2 6 (⟨N0, N2, N1, N0, N2, N0, N0, N1, N2⟩ : Grid) P1 = some (Z0, some M00) :=
  readBoardAux_step P2 5 (⟨N0, N2, N1, N0, N2, N0, N0, N1, N2⟩ : Grid) P1 [M00, M10, M12, M20] rfl rfl
    (collectScores_cons v121020012 (collectScores_cons v021120012 (collectScores_cons v021021012 (collectScores_cons v021020112 collectScores_nil)))) rfl

theorem v021020010 : readBoardAux P2 7 (⟨N0, N2, N1, N0, N2, N0, N0, N1, N0⟩ : Grid) P2 = some (Z0, some M10) :=
  readBoardAux_step P2 6 (⟨N0, N2, N1, N0, N2, N0, N0, N1, N0⟩ : Grid) P2 [M00, M10, M12, M20, M22] rfl rfl
    (collectScores_cons v221020010 (collectScores_cons v021220010 (collectScores_cons v021022010 (collectScores_cons v021020210 (collectScores_cons v021020012 collectScores_nil))))) rfl

theorem v021022001 : readBoardAux P2 6 (⟨N0, N2, N1, N0, N2, N2, N0, N0, N1⟩ : Grid) P1 = some (ZP, some M00) :=
  readBoardAux_step P2 5 (⟨N0, N2, N1, N0, N2, N2, N0, N0, N1⟩ : Grid) P1 [M00, M10, M20, M21] rfl rfl
    (collectScores_cons v121022001 (collectScores_cons v021122001 (collectScores_cons v021022101 (collectScores_cons v021022011 collectScores_nil)))) rfl

theorem v021020201 : readBoardAux P2 6 (⟨N0, N2, N1, N0, N2, N0, N2, N0, N1⟩ : Grid) P1 = some (ZM, some M12) :=
  readBoardAux_step P2 5 (⟨N0, N2, N1, N0, N2, N0, N2, N0, N1⟩ : Grid) P1 [M00, M10, M12, M21] rfl rfl
    (collectScores_cons v121020201 (collectScores_cons v021120201 (collectScores_cons t021021201 (collectScores_cons v021020211 collectScores_nil)))) rfl

theorem t021020021 : readBoardAux P2 6 (⟨N0, N2, N1, N0, N2, N0, N0, N2, N1⟩ : Grid) P1 = some (ZP, none) :=
  rfl

theorem v021020001 : readBoardAux P2 7 (⟨N0, N2, N1, N0, N2, N0, N0, N0, N1⟩ : Grid) P2 = some (ZP, some M12) :=
  readBoardAux_step P2 6 (⟨N0, N2, N1, N0, N2, N0, N0, N0, N1⟩ : Grid) P2 [M00, M10, M12, M20, M21] rfl rfl
    (collectScores_cons v221020001 (collectScores_cons v021220001 (collectScores_cons v021022001 (collectScores_cons v021020201 (collectScores_cons t021020021 collectScores_nil))))) rfl

theorem v021020000 : readBoardAux P2 8 (⟨N0, N2, N1, N0, N2, N0, N0, N0, N0⟩ : Grid) P1 = some (Z0, some M21) :=
  readBoardAux_step P2 7 (⟨N0, N2, N1, N0, N2, N0, N0, N0, N0⟩ : Grid) P1 [M00, M10, M12, M20, M21, M22] rfl rfl
    (collectScores_cons v121020000 (collectScores_cons v021120000 (collectScores_cons v021021000 (collectScores_cons v021020100 (collectScores_cons v021020010 (collectScores_cons v021020001 collectScores_nil)))))) rfl

theorem v021112221 : readBoardAux P2 3 (⟨N0, N2, N1, N1, N1, N2, N2, N2, N1⟩ : Grid) P2 = some (Z0, some M00) :=
  readBoardAux_step P2 2 (⟨N0, N2, N1, N1, N1, N2, N2, N2, N1⟩ : Grid) P2 [M00] rfl rfl
    (collectScores_cons t221112221 collectScores_nil) rfl

theorem v021112220 : readBoardAux P2 4 (⟨N0, N2, N1, N1, N1, N2, N2, N2, N0⟩ : Grid) P1 = some (Z0, some M22) :=
  readBoardAux_step P2 3 (⟨N0, N2, N1, N1, N1, N2, N2, N2, N0⟩ : Grid) P1 [M00, M22] rfl rfl
    (collectScores_cons v121112220 (collectScores_cons v021112221 collectScores_nil)) rfl

theorem v021112212 : readBoardAux P2 3 (⟨N0, N2, N1, N1, N1, N2, N2, N1, N2⟩ : Grid) P2 = some (Z0, some M00) :=
  readBoardAux_step P2 2 (⟨N0, N2, N1, N1, N1, N2, N2, N1, N2⟩ : Grid) P2 [M00] rfl rfl
    (collectScores_cons t221112212 collectScores_nil) rfl

theorem v021112202 : readBoardAux P2 4 (⟨N0, N2, N1, N1, N1, N2, N2, N0, N2⟩ : Grid) P1 = some (Z0, some M21) :=
  readBoardAux_step P2 3 (⟨N0, N2, N1, N1, N1, N2, N2, N0, N2⟩ : Grid) P1 [M00, M21] rfl rfl
    (collectScores_cons v121112202 (collectScores_cons v021112212 collectScores_nil)) rfl

theorem v021112200 : readBoardAux P2 5 (⟨N0, N2, N1, N1, N1, N2, N2, N0, N0⟩ : Grid) P2 = some (Z0, some M00) :=
  readBoardAux_step P2 4 (⟨N0, N2, N1, N1, N1, N2, N2, N0, N0⟩ : Grid) P2 [M00, M21, M22] rfl rfl
    (collectScores_cons v221112200 (collectScores_cons v021112220 (collectScores_cons v021112202 collectScores_nil))) rfl

theorem v021102212 : readBoardAux P2 4 (⟨N0, N2, N1, N1, N0, N2, N2, N1, N2⟩ : Grid) P1 = some (Z0, some M00) :=
  readBoardAux_step P2 3 (⟨N0, N2, N1, N1, N0, N2, N2, N1, N2⟩ : Grid) P1 [M00, M11] rfl rfl
    (collectScores_cons v121102212 (collectScores_cons v021112212 collectScores_nil)) rfl

theorem v021102210 : readBoardAux P2 5 (⟨N0, N2, N1, N1, N0, N2, N2, N1, N0⟩ : Grid) P2 = some (Z0, some M00) :=
  readBoardAux_step P2 4 (⟨N0, N2, N1, N1, N0, N2, N2, N1, N0⟩ : Grid) P2 [M00, M11, M22] rfl rfl
    (collectScores_cons v221102210 (collectScores_cons v021122210 (collectScores_cons v021102212 collectScores_nil))) rfl

theorem v021102221 : readBoardAux P2 4 (⟨N0, N2, N1, N1, N0, N2, N2, N2, N1⟩ : Grid) P1 = some (Z0, some M11) :=
  readBoardAux_step P2 3 (⟨N0, N2, N1, N1, N0, N2, N2, N2, N1⟩ : Grid) P1 [M00, M11] rfl rfl
    (collectScores_cons v121102221 (collectScores_cons v021112221 collectScores_nil)) rfl

theorem v021102201 : readBoardAux P2 5 (⟨N0, N2, N1, N1, N0, N2, N2, N0, N1⟩ : Grid) P2 = some (Z0, some M00) :=
  readBoardAux_step P2 4 (⟨N0, N2, N1, N1, N0, N2, N2, N0, N1⟩ : Grid) P2 [M00, M11, M21] rfl rfl
    (collectScores_cons v221102201 (collectScores_cons v021122201 (collectScores_cons v021102221 collectScores_nil))) rfl

theorem v021102200 : readBoardAux P2 6 (⟨N0, N2, N1, N1, N0, N2, N2, N0, N0⟩ : Grid) P1 = some (Z0, some M11) :=
  readBoardAux_step P2 5 (⟨N0, N2, N1, N1, N0, N2, N2, N0, N0⟩ : Grid) P1 [M00, M11, M21, M22] rfl rfl
    (collectScores_cons v121102200 (collectScores_cons v021112200 (collectScores_cons v021102210 (collectScores_cons v021102201 collectScores_nil)))) rfl

theorem t021112122 : readBoardAux P2 3 (⟨N0, N2, N1, N1, N1, N2, N1, N2, N2⟩ : Grid) P2 = some (ZM, none) :=
  rfl

theorem v021112022 : readBoardAux P2 4 (⟨N0, N2, N1, N1, N1, N2, N0, N2, N2⟩ : Grid) P1 = some (ZM, some M20) :=
  readBoardAux_step P2 3 (⟨N0, N2, N1, N1, N1, N2, N0, N2, N2⟩ : Grid) P1 [M00, M20] rfl rfl
    (collectScores_cons v121112022 (collectScores_cons t021112122 collectScores_nil)) rfl

theorem v021112020 : readBoardAux P2 5 (⟨N0, N2, N1, N1, N1, N2, N0, N2, N0⟩ : Grid) P2 = some (Z0, some M20) :=
  readBoardAux_step P2 4 (⟨N0, N2, N1, N1, N1, N2, N0, N2, N0⟩ : Grid) P2 [M00, M20, M22] rfl rfl
    (collectScores_cons v221112020 (collectScores_cons v021112220 (collectScores_cons v021112022 collectScores_nil))) rfl

theorem v021102122 : readBoardAux P2 4 (⟨N0, N2, N1, N1, N0, N2, N1, N2, N2⟩ : Grid) P1 = some (ZM, some M00) :=
  readBoardAux_step P2 3 (⟨N0, N2, N1, N1, N0, N2, N1, N2, N2⟩ : Grid) P1 [M00, M11] rfl rfl
    (collectScores_cons t121102122 (collectScores_cons t021112122 collectScores_nil)) rfl

theorem v021102120 : readBoardAux P2 5 (⟨N0, N2, N1, N1, N0, N2, N1, N2, N0⟩ : Grid) P2 = some (ZP, some M11) :=
  readBoardAux_step P2 4 (⟨N0, N2, N1, N1, N0, N2, N1, N2, N0⟩ : Grid) P2 [M00, M11, M22] rfl rfl
    (collectScores_cons v221102120 (collectScores_cons t021122120 (collectScores_cons v021102122 collectScores_nil))) rfl

theorem v021102021 : readBoardAux P2 5 (⟨N0, N2, N1, N1, N0, N2, N0, N2, N1⟩ : Grid) P2 = some (ZP, some M11) :=
  readBoardAux_step P2 4 (⟨N0, N2, N1, N1, N0, N2, N0, N2, N1⟩ : Grid) P2 [M00, M11, M20] rfl rfl
    (collectScores_cons v221102021 (collectScores_cons t021122021 (collectScores_cons v021102221 collectScores_nil))) rfl

theorem v021102020 : readBoardAux P2 6 (⟨N0, N2, N1, N1, N0, N2, N0, N2, N0⟩ : Grid) P1 = some (Z0, some M11) :=
  readBoardAux_step P2 5 (⟨N0, N2, N1, N1, N0, N2, N0, N2, N0⟩ : Grid) P1 [M00, M11, M20, M22] rfl rfl
    (collectScores_cons v121102020 (collectScores_cons v021112020 (collectScores_cons v021102120 (collectScores_cons v021102021 collectScores_nil)))) rfl

theorem v021112002 : readBoardAux P2 5 (⟨N0, N2, N1, N1, N1, N2, N0, N0, N2⟩ : Grid) P2 = some (Z0, some M20) :=
  readBoardAux_step P2 4 (⟨N0, N2, N1, N1, N1, N2, N0, N0, N2⟩ : Grid) P2 [M00, M20, M21] rfl rfl
    (collectScores_cons v221112002 (collectScores_cons v021112202 (collectScores_cons v021112022 collectScores_nil))) rfl

theorem v021102102 : readBoardAux P2 5 (⟨N0, N2, N1, N1, N0, N2, N1, N0, N2⟩ : Grid) P2 = some (ZM, some M00) :=
  readBoardAux_step P2 4 (⟨N0, N2, N1, N1, N0, N2, N1, N0, N2⟩ : Grid) P2 [M00, M11, M21] rfl rfl
    (collectScores_cons v221102102 (collectScores_cons v021122102 (collectScores_cons v021102122 collectScores_nil))) rfl

theorem v021102012 : readBoardAux P2 5 (⟨N0, N2, N1, N1, N0, N2, N0, N1, N2⟩ : Grid) P2 = some (Z0, some M00) :=
  readBoardAux_step P2 4 (⟨N0, N2, N1, N1, N0, N2, N0, N1, N2⟩ : Grid) P2 [M00, M11, M20] rfl rfl
    (collectScores_cons v221102012 (collectScores_cons v021122012 (collectScores_cons v021102212 collectScores_nil))) rfl

theorem v021102002 : readBoardAux P2 6 (⟨N0, N2, N1, N1, N0, N2, N0, N0, N2⟩ : Grid) P1 = some (ZM, some M20) :=
  readBoardAux_step P2 5 (⟨N0, N2, N1, N1, N0, N2, N0, N0, N2⟩ : Grid) P1 [M00, M11, M20, M21] rfl rfl
    (collectScores_cons v121102002 (collectScores_cons v021112002 (collectScores_cons v021102102 (collectScores_cons v021102012 collectScores_nil)))) rfl

theorem v021102000 : readBoardAux P2 7 (⟨N0, N2, N1, N1, N0, N2, N0, N0, N0⟩ : Grid) P2 = some (Z0, some M00) :=
  readBoardAux_step P2 6 (⟨N0, N2, N1, N1, N0, N2, N0, N0, N0⟩ : Grid) P2 [M00, M11, M20, M21, M22] rfl rfl
    (collectScores_cons v221102000 (collectScores_cons v021122000 (collectScores_cons v021102200 (collectScores_cons v021102020 (collectScores_cons v021102002 collectScores_nil))))) rfl

theorem v021012212 : readBoardAux P2 4 (⟨N0, N2, N1, N0, N1, N2, N2, N1, N2⟩ : Grid) P1 = some (Z0, some M00) :=
  readBoardAux_step P2 3 (⟨N0, N2, N1, N0, N1, N2, N2, N1, N2⟩ : Grid) P1 [M00, M10] rfl rfl
    (collectScores_cons v121012212 (collectScores_cons v021112212 collectScores_nil)) rfl

theorem v021012210 : readBoardAux P2 5 (⟨N0, N2, N1, N0, N1, N2, N2, N1, N0⟩ : Grid) P2 = some (Z0, some M00) :=
  readBoardAux_step P2 4 (⟨N0, N2, N1, N0, N1, N2, N2, N1, N0⟩ : Grid) P2 [M00, M10, M22] rfl rfl
    (collectScores_cons v221012210 (collectScores_cons v021212210 (collectScores_cons v021012212 collectScores_nil))) rfl

theorem v021012221 : readBoardAux P2 4 (⟨N0, N2, N1, N0, N1, N2, N2, N2, N1⟩ : Grid) P1 = some (ZM, some M00) :=
  readBoardAux_step P2 3 (⟨N0, N2, N1, N0, N1, N2, N2, N2, N1⟩ : Grid) P1 [M00, M10] rfl rfl
    (collectScores_cons t121012221 (collectScores_cons v021112221 collectScores_nil)) rfl

theorem v021012201 : readBoardAux P2 5 (⟨N0, N2, N1, N0, N1, N2, N2, N0, N1⟩ : Grid) P2 = some (Z0, some M00) :=
  readBoardAux_step P2 4 (⟨N0, N2, N1, N0, N1, N2, N2, N0, N1⟩ : Grid) P2 [M00, M10, M21] rfl rfl
    (collectScores_cons v221012201 (collectScores_cons v021212201 (collectScores_cons v021012221 collectScores_nil))) rfl

theorem v021012200 : readBoardAux P2 6 (⟨N0, N2, N1, N0, N1, N2, N2, N0, N0⟩ : Grid) P1 = some (Z0, some M00) :=
  readBoardAux_step P2 5 (⟨N0, N2, N1, N0, N1, N2, N2, N0, N0⟩ : Grid) P1 [M00, M10, M21, M22] rfl rfl
    (collectScores_cons v121012200 (collectScores_cons v021112200 (collectScores_cons v021012210 (collectScores_cons v021012201 collectScores_nil)))) rfl

theorem t021012120 : readBoardAux P2 5 (⟨N0, N2, N1, N0, N1, N2, N1, N2, N0⟩ : Grid) P2 = some (ZM, none) :=
  rfl

theorem v021012021 : readBoardAux P2 5 (⟨N0, N2, N1, N0, N1, N2, N0, N2, N1⟩ : Grid) P2 = some (ZM, some M00) :=
  readBoardAux_step P2 4 (⟨N0, N2, N1, N0, N1, N2, N0, N2, N1⟩ : Grid) P2 [M00, M10, M20] rfl rfl
    (collectScores_cons v221012021 (collectScores_cons v021212021 (collectScores_cons v021012221 collectScores_nil))) rfl

theorem v021012020 : readBoardAux P2 6 (⟨N0, N2, N1, N0, N1, N2, N0, N2, N0⟩ : Grid) P1 = some (ZM, some M00) :=
  readBoardAux_step P2 5 (⟨N0, N2, N1, N0, N1, N2, N0, N2, N0⟩ : Grid) P1 [M00, M10, M20, M22] rfl rfl
    (collectScores_cons v121012020 (collectScores_cons v021112020 (collectScores_cons t021012120 (collectScores_cons v021012021 collectScores_nil)))) rfl

theorem t021012102 : readBoardAux P2 5 (⟨N0, N2, N1, N0, N1, N2, N1, N0, N2⟩ : Grid) P2 = some (ZM, none) :=
  rfl

theorem v021012012 : readBoardAux P2 5 (⟨N0, N2, N1, N0, N1, N2, N0, N1, N2⟩ : Grid) P2 = some (Z0, some M20) :=
  readBoardAux_step P2 4 (⟨N0, N2, N1, N0, N1, N2, N0, N1, N2⟩ : Grid) P2 [M00, M10, M20] rfl rfl
    (collectScores_cons v221012012 (collectScores_cons v021212012 (collectScores_cons v021012212 collectScores_nil))) rfl

theorem v021012002 : readBoardAux P2 6 (⟨N0, N2, N1, N0, N1, N2, N0, N0, N2⟩ : Grid) P1 = some (ZM, some M20) :=
  readBoardAux_step P2 5 (⟨N0, N2, N1, N0, N1, N2, N0, N0, N2⟩ : Grid) P1 [M00, M10, M20, M21] rfl rfl
    (collectScores_cons v121012002 (collectScores_cons v021112002 (collectScores_cons t021012102 (collectScores_cons v021012012 collectScores_nil)))) rfl

theorem v021012000 : readBoardAux P2 7 (⟨N0, N2, N1, N0, N1, N2, N0, N0, N0⟩ : Grid) P2 = some (Z0, some M20) :=
  readBoardAux_step P2 6 (⟨N0, N2, N1, N0, N1, N2, N0, N0, N0⟩ : Grid) P2 [M00, M10, M20, M21, M22] rfl rfl
    (collectScores_cons v221012000 (collectScores_cons v021212000 (collectScores_cons v021012200 (collectScores_cons v021012020 (collectScores_cons v021012002 collectScores_nil))))) rfl

theorem v021002121 : readBoardAux P2 5 (⟨N0, N2, N1, N0, N0, N2, N1, N2, N1⟩ : Grid) P2 = some (ZP, some M11) :=
  readBoardAux_step P2 4 (⟨N0, N2, N1, N0, N0, N2, N1, N2, N1⟩ : Grid) P2 [M00, M10, M11] rfl rfl
    (collectScores_cons v221002121 (collectScores_cons v021202121 (collectScores_cons t021022121 collectScores_nil))) rfl

theorem v021002120 : readBoardAux P2 6 (⟨N0, N2, N1, N0, N0, N2, N1, N2, N0⟩ : Grid) P1 = some (ZM, some M11) :=
  readBoardAux_step P2 5 (⟨N0, N2, N1, N0, N0, N2, N1, N2, N0⟩ : Grid) P1 [M00, M10, M11, M22] rfl rfl
    (collectScores_cons v121002120 (collectScores_cons v021102120 (collectScores_cons t021012120 (collectScores_cons v021002121 collectScores_nil)))) rfl

theorem v021002112 : readBoardAux P2 5 (⟨N0, N2, N1, N0, N0, N2, N1, N1, N2⟩ : Grid) P2 = some (ZP, some M11) :=
  readBoardAux_step P2 4 (⟨N0, N2, N1, N0, N0, N2, N1, N1, N2⟩ : Grid) P2 [M00, M10, M11] rfl rfl
    (collectScores_cons v221002112 (collectScores_cons v021202112 (collectScores_cons v021022112 collectScores_nil))) rfl

theorem v021002102 : readBoardAux P2 6 (⟨N0, N2, N1, N0, N0, N2, N1, N0, N2⟩ : Grid) P1 = some (ZM, some M00) :=
  readBoardAux_step P2 5 (⟨N0, N2, N1, N0, N0, N2, N1, N0, N2⟩ : Grid) P1 [M00, M10, M11, M21] rfl rfl
    (collectScores_cons v121002102 (collectScores_cons v021102102 (collectScores_cons t021012102 (collectScores_cons v021002112 collectScores_nil)))) rfl

theorem v021002100 : readBoardAux P2 7 (⟨N0, N2, N1, N0, N0, N2, N1, N0, N0⟩ : Grid) P2 = some (ZP, some M11) :=
  readBoardAux_step P2 6 (⟨N0, N2, N1, N0, N0, N2, N1, N0, N0⟩ : Grid) P2 [M00, M10, M11, M21, M22] rfl rfl
    (collectScores_cons v221002100 (collectScores_cons v021202100 (collectScores_cons v021022100 (collectScores_cons v021002120 (collectScores_cons v021002102 collectScores_nil))))) rfl

theorem v021002211 : readBoardAux P2 5 (⟨N0, N2, N1, N0, N0, N2, N2, N1, N1⟩ : Grid) P2 = some (ZP, some M10) :=
  readBoardAux_step P2 4 (⟨N0, N2, N1, N0, N0, N2, N2, N1, N1⟩ : Grid) P2 [M00, M10, M11] rfl rfl
    (collectScores_cons v221002211 (collectScores_cons v021202211 (collectScores_cons v021022211 collectScores_nil))) rfl

theorem v021002210 : readBoardAux P2 6 (⟨N0, N2, N1, N0, N0, N2, N2, N1, N0⟩ : Grid) P1 = some (Z0, some M00) :=
  readBoardAux_step P2 5 (⟨N0, N2, N1, N0, N0, N2, N2, N1, N0⟩ : Grid) P1 [M00, M10, M11, M22] rfl rfl
    (collectScores_cons v121002210 (collectScores_cons v021102210 (collectScores_cons v021012210 (collectScores_cons v021002211 collectScores_nil)))) rfl

theorem v021002012 : readBoardAux P2 6 (⟨N0, N2, N1, N0, N0, N2, N0, N1, N2⟩ : Grid) P1 = some (Z0, some M00) :=
  readBoardAux_step P2 5 (⟨N0, N2, N1, N0, N0, N2, N0, N1, N2⟩ : Grid) P1 [M00, M10, M11, M20] rfl rfl
    (collectScores_cons v121002012 (collectScores_cons v021102012 (collectScores_cons v021012012 (collectScores_cons v021002112 collectScores_nil)))) rfl

theorem v021002010 : readBoardAux P2 7 (⟨N0, N2, N1, N0, N0, N2, N0, N1, N0⟩ : Grid) P2 = some (Z0, some M10) :=
  readBoardAux_step P2 6 (⟨N0, N2, N1, N0, N0, N2, N0, N1, N0⟩ : Grid) P2 [M00, M10, M11, M20, M22] rfl rfl
    (collectScores_cons v221002010 (collectScores_cons v021202010 (collectScores_cons v021022010 (collectScores_cons v021002210 (collectScores_cons v021002012 collectScores_nil))))) rfl

theorem v021002201 : readBoardAux P2 6 (⟨N0, N2, N1, N0, N0, N2, N2, N0, N1⟩ : Grid) P1 = some (Z0, some M10) :=
  readBoardAux_step P2 5 (⟨N0, N2, N1, N0, N0, N2, N2, N0, N1⟩ : Grid) P1 [M00, M10, M11, M21] rfl rfl
    (collectScores_cons v121002201 (collectScores_cons v021102201 (collectScores_cons v021012201 (collectScores_cons v021002211 collectScores_nil)))) rfl

theorem v021002021 : readBoardAux P2 6 (⟨N0, N2, N1, N0, N0, N2, N0, N2, N1⟩ : Grid) P1 = some (ZM, some M11) :=
  readBoardAux_step P2 5 (⟨N0, N2, N1, N0, N0, N2, N0, N2, N1⟩ : Grid) P1 [M00, M10, M11, M20] rfl rfl
    (collectScores_cons v121002021 (collectScores_cons v021102021 (collectScores_cons v021012021 (collectScores_cons v021002121 collectScores_nil)))) rfl

theorem v021002001 : readBoardAux P2 7 (⟨N0, N2, N1, N0, N0, N2, N0, N0, N1⟩ : Grid) P2 = some (ZP, some M11) :=
  readBoardAux_step P2 6 (⟨N0, N2, N1, N0, N0, N2, N0, N0, N1⟩ : Grid) P2 [M00, M10, M11, M20, M21] rfl rfl
    (collectScores_cons v221002001 (collectScores_cons v021202001 (collectScores_cons v021022001 (collectScores_cons v021002201 (collectScores_cons v021002021 collectScores_nil))))) rfl

theorem v021002000 : readBoardAux P2 8 (⟨N0, N2, N1, N0, N0, N2, N0, N0, N0⟩ : Grid) P1 = some (Z0, some M10) :=
  readBoardAux_step P2 7 (⟨N0, N2, N1, N0, N0, N2, N0, N0, N0⟩ : Grid) P1 [M00, M10, M11, M20, M21, M22] rfl rfl
    (collectScores_cons v121002000 (collectScores_cons v021102000 (collectScores_cons v021012000 (collectScores_cons v021002100 (collectScores_cons v021002010 (collectScores_cons v021002001 collectScores_nil)))))) rfl

theorem t021110222 : readBoardAux P2 4 (⟨N0, N2, N1, N1, N1, N0, N2, N2, N2⟩ : Grid) P1 = some (ZP, none) :=
  rfl

theorem v021110220 : readBoardAux P2 5 (⟨N0, N2, N1, N1, N1, N0, N2, N2, N0⟩ : Grid) P2 = some (ZP, some M22) :=
  readBoardAux_step P2 4 (⟨N0, N2, N1, N1, N1, N0, N2, N2, N0⟩ : Grid) P2 [M00, M12, M22] rfl rfl
    (collectScores_cons v221110220 (collectScores_cons v021112220 (collectScores_cons t021110222 collectScores_nil))) rfl

theorem t021101222 : readBoardAux P2 4 (⟨N0, N2, N1, N1, N0, N1, N2, N2, N2⟩ : Grid) P1 = some (ZP, none) :=
  rfl

theorem v021101220 : readBoardAux P2 5 (⟨N0, N2, N1, N1, N0, N1, N2, N2, N0⟩ : Grid) P2 = some (ZP, some M11) :=
  readBoardAux_step P2 4 (⟨N0, N2, N1, N1, N0, N1, N2, N2, N0⟩ : Grid) P2 [M00, M11, M22] rfl rfl
    (collectScores_cons v221101220 (collectScores_cons t021121220 (collectScores_cons t021101222 collectScores_nil))) rfl

theorem v021100221 : readBoardAux P2 5 (⟨N0, N2, N1, N1, N0, N0, N2, N2, N1⟩ : Grid) P2 = some (ZP, some M11) :=
  readBoardAux_step P2 4 (⟨N0, N2, N1, N1, N0, N0, N2, N2, N1⟩ : Grid) P2 [M00, M11, M12] rfl rfl
    (collectScores_cons v221100221 (collectScores_cons t021120221 (collectScores_cons v021102221 collectScores_nil))) rfl

theorem v021100220 : readBoardAux P2 6 (⟨N0, N2, N1, N1, N0, N0, N2, N2, N0⟩ : Grid) P1 = some (ZP, some M00) :=
  readBoardAux_step P2 5 (⟨N0, N2, N1, N1, N0, N0, N2, N2, N0⟩ : Grid) P1 [M00, M11, M12, M22] rfl rfl
    (collectScores_cons v121100220 (collectScores_cons v021110220 (collectScores_cons v021101220 (collectScores_cons v021100221 collectScores_nil)))) rfl

theorem v021110202 : readBoardAux P2 5 (⟨N0, N2, N1, N1, N1, N0, N2, N0, N2⟩ : Grid) P2 = some (ZP, some M21) :=
  readBoardAux_step P2 4 (⟨N0, N2, N1, N1, N1, N0, N2, N0, N2⟩ : Grid) P2 [M00, M12, M21] rfl rfl
    (collectScores_cons v221110202 (collectScores_cons v021112202 (collectScores_cons t021110222 collectScores_nil))) rfl

theorem v021101202 : readBoardAux P2 5 (⟨N0, N2, N1, N1, N0, N1, N2, N0, N2⟩ : Grid) P2 = some (ZP, some M11) :=
  readBoardAux_step P2 4 (⟨N0, N2, N1, N1, N0, N1, N2, N0, N2⟩ : Grid) P2 [M00, M11, M21] rfl rfl
    (collectScores_cons v221101202 (collectScores_cons v021121202 (collectScores_cons t021101222 collectScores_nil))) rfl

theorem v021100212 : readBoardAux P2 5 (⟨N0, N2, N1, N1, N0, N0, N2, N1, N2⟩ : Grid) P2 = some (Z0, some M00) :=
  readBoardAux_step P2 4 (⟨N0, N2, N1, N1, N0, N0, N2, N1, N2⟩ : Grid) P2 [M00, M11, M12] rfl rfl
    (collectScores_cons v221100212 (collectScores_cons v021120212 (collectScores_cons v021102212 collectScores_nil))) rfl

theorem v021100202 : readBoardAux P2 6 (⟨N0, N2, N1, N1, N0, N0, N2, N0, N2⟩ : Grid) P1 = some (Z0, some M21) :=
  readBoardAux_step P2 5 (⟨N0, N2, N1, N1, N0, N0, N2, N0, N2⟩ : Grid) P1 [M00, M11, M12, M21] rfl rfl
    (collectScores_cons v121100202 (collectScores_cons v021110202 (collectScores_cons v021101202 (collectScores_cons v021100212 collectScores_nil)))) rfl

theorem v021100200 : readBoardAux P2 7 (⟨N0, N2, N1, N1, N0, N0, N2, N0, N0⟩ : Grid) P2 = some (ZP, some M21) :=
  readBoardAux_step P2 6 (⟨N0, N2, N1, N1, N0, N0, N2, N0, N0⟩ : Grid) P2 [M00, M11, M12, M21, M22] rfl rfl
    (collectScores_cons v221100200 (collectScores_cons v021120200 (collectScores_cons v021102200 (collectScores_cons v021100220 (collectScores_cons v021100202 collectScores_nil))))) rfl

theorem t021011222 : readBoardAux P2 4 (⟨N0, N2, N1, N0, N1, N1, N2, N2, N2⟩ : Grid) P1 = some (ZP, none) :=
  rfl

theorem v021011220 : readBoardAux P2 5 (⟨N0, N2, N1, N0, N1, N1, N2, N2, N0⟩ : Grid) P2 = some (ZP, some M22) :=
  readBoardAux_step P2 4 (⟨N0, N2, N1, N0, N1, N1, N2, N2, N0⟩ : Grid) P2 [M00, M10, M22] rfl rfl
    (collectScores_cons v221011220 (collectScores_cons v021211220 (collectScores_cons t021011222 collectScores_nil))) rfl

theorem v021010221 : readBoardAux P2 5 (⟨N0, N2, N1, N0, N1, N0, N2, N2, N1⟩ : Grid) P2 = some (ZM, some M00) :=
  readBoardAux_step P2 4 (⟨N0, N2, N1, N0, N1, N0, N2, N2, N1⟩ : Grid) P2 [M00, M10, M12] rfl rfl
    (collectScores_cons v221010221 (collectScores_cons v021210221 (collectScores_cons v021012221 collectScores_nil))) rfl

theorem v021010220 : readBoardAux P2 6 (⟨N0, N2, N1, N0, N1, N0, N2, N2, N0⟩ : Grid) P1 = some (ZM, some M22) :=
  readBoardAux_step P2 5 (⟨N0, N2, N1, N0, N1, N0, N2, N2, N0⟩ : Grid) P1 [M00, M10, M12, M22] rfl rfl
    (collectScores_cons v121010220 (collectScores_cons v021110220 (collectScores_cons v021011220 (collectScores_cons v021010221 collectScores_nil)))) rfl

theorem v021011202 : readBoardAux P2 5 (⟨N0, N2, N1, N0, N1, N1, N2, N0, N2⟩ : Grid) P2 = some (ZP, some M10) :=
  readBoardAux_step P2 4 (⟨N0, N2, N1, N0, N1, N1, N2, N0, N2⟩ : Grid) P2 [M00, M10, M21] rfl rfl
    (collectScores_cons v221011202 (collectScores_cons v021211202 (collectScores_cons t021011222 collectScores_nil))) rfl

theorem v021010212 : readBoardAux P2 5 (⟨N0, N2, N1, N0, N1, N0, N2, N1, N2⟩ : Grid) P2 = some (Z0, some M00) :=
  readBoardAux_step P2 4 (⟨N0, N2, N1, N0, N1, N0, N2, N1, N2⟩ : Grid) P2 [M00, M10, M12] rfl rfl
    (collectScores_cons v221010212 (collectScores_cons v021210212 (collectScores_cons v021012212 collectScores_nil))) rfl

theorem v021010202 : readBoardAux P2 6 (⟨N0, N2, N1, N0, N1, N0, N2, N0, N2⟩ : Grid) P1 = some (Z0, some M21) :=
  readBoardAux_step P2 5 (⟨N0, N2, N1, N0, N1, N0, N2, N0, N2⟩ : Grid) P1 [M00, M10, M12, M21] rfl rfl
    (collectScores_cons v121010202 (collectScores_cons v021110202 (collectScores_cons v021011202 (collectScores_cons v021010212 collectScores_nil)))) rfl

theorem v021010200 : readBoardAux P2 7 (⟨N0, N2, N1, N0, N1, N0, N2, N0, N0⟩ : Grid) P2 = some (Z0, some M00) :=
  readBoardAux_step P2 6 (⟨N0, N2, N1, N0, N1, N0, N2, N0, N0⟩ : Grid) P2 [M00, M10, M12, M21, M22] rfl rfl
    (collectScores_cons v221010200 (collectScores_cons v021210200 (collectScores_cons v021012200 (collectScores_cons v021010220 (collectScores_cons v021010202 collectScores_nil))))) rfl

theorem t021001221 : readBoardAux P2 5 (⟨N0, N2, N1, N0, N0, N1, N2, N2, N1⟩ : Grid) P2 = some (ZM, none) :=
  rfl

theorem v021001220 : readBoardAux P2 6 (⟨N0, N2, N1, N0, N0, N1, N2, N2, N0⟩ : Grid) P1 = some (ZM, some M22) :=
  readBoardAux_step P2 5 (⟨N0, N2, N1, N0, N0, N1, N2, N2, N0⟩ : Grid) P1 [M00, M10, M11, M22] rfl rfl
    (collectScores_cons v121001220 (collectScores_cons v021101220 (collectScores_cons v021011220 (collectScores_cons t021001221 collectScores_nil)))) rfl

theorem v021001212 : readBoardAux P2 5 (⟨N0, N2, N1, N0, N0, N1, N2, N1, N2⟩ : Grid) P2 = some (ZP, some M00) :=
  readBoardAux_step P2 4 (⟨N0, N2, N1, N0, N0, N1, N2, N1, N2⟩ : Grid) P2 [M00, M10, M11] rfl rfl
    (collectScores_cons v221001212 (collectScores_cons v021201212 (collectScores_cons v021021212 collectScores_nil))) rfl

theorem v021001202 : readBoardAux P2 6 (⟨N0, N2, N1, N0, N0, N1, N2, N0, N2⟩ : Grid) P1 = some (ZP, some M00) :=
  readBoardAux_step P2 5 (⟨N0, N2, N1, N0, N0, N1, N2, N0, N2⟩ : Grid) P1 [M00, M10, M11, M21] rfl rfl
    (collectScores_cons v121001202 (collectScores_cons v021101202 (collectScores_cons v021011202 (collectScores_cons v021001212 collectScores_nil)))) rfl

theorem v021001200 : readBoardAux P2 7 (⟨N0, N2, N1, N0, N0, N1, N2, N0, N0⟩ : Grid) P2 = some (ZP, some M22) :=
  readBoardAux_step P2 6 (⟨N0, N2, N1, N0, N0, N1, N2, N0, N0⟩ : Grid) P2 [M00, M10, M11, M21, M22] rfl rfl
    (collectScores_cons v221001200 (collectScores_cons v021201200 (collectScores_cons v021021200 (collectScores_cons v021001220 (collectScores_cons v021001202 collectScores_nil))))) rfl

theorem v021000212 : readBoardAux P2 6 (⟨N0, N2, N1, N0, N0, N0, N2, N1, N2⟩ : Grid) P1 = some (Z0, some M00) :=
  readBoardAux_step P2 5 (⟨N0, N2, N1, N0, N0, N0, N2, N1, N2⟩ : Grid) P1 [M00, M10, M11, M12] rfl rfl
    (collectScores_cons v121000212 (collectScores_cons v021100212 (collectScores_cons v021010212 (collectScores_cons v021001212 collectScores_nil)))) rfl

theorem v021000210 : readBoardAux P2 7 (⟨N0, N2, N1, N0, N0, N0, N2, N1, N0⟩ : Grid) P2 = some (Z0, some M00) :=
  readBoardAux_step P2 6 (⟨N0, N2, N1, N0, N0, N0, N2, N1, N0⟩ : Grid) P2 [M00, M10, M11, M12, M22] rfl rfl
    (collectScores_cons v221000210 (collectScores_cons v021200210 (collectScores_cons v021020210 (collectScores_cons v021002210 (collectScores_cons v021000212 collectScores_nil))))) rfl

theorem v021000221 : readBoardAux P2 6 (⟨N0, N2, N1, N0, N0, N0, N2, N2, N1⟩ : Grid) P1 = some (ZM, some M11) :=
  readBoardAux_step P2 5 (⟨N0, N2, N1, N0, N0, N0, N2, N2, N1⟩ : Grid) P1 [M00, M10, M11, M12] rfl rfl
    (collectScores_cons v121000221 (collectScores_cons v021100221 (collectScores_cons v021010221 (collectScores_cons t021001221 collectScores_nil)))) rfl

theorem v021000201 : readBoardAux P2 7 (⟨N0, N2, N1, N0, N0, N0, N2, N0, N1⟩ : Grid) P2 = some (Z0, some M12) :=
  readBoardAux_step P2 6 (⟨N0, N2, N1, N0, N0, N0, N2, N0, N1⟩ : Grid) P2 [M00, M10, M11, M12, M21] rfl rfl
    (collectScores_cons v221000201 (collectScores_cons v021200201 (collectScores_cons v021020201 (collectScores_cons v021002201 (collectScores_cons v021000221 collectScores_nil))))) rfl

theorem v021000200 : readBoardAux P2 8 (⟨N0, N2, N1, N0, N0, N0, N2, N0, N0⟩ : Grid) P1 = some (Z0, some M11) :=
  readBoardAux_step P2 7 (⟨N0, N2, N1, N0, N0, N0, N2, N0, N0⟩ : Grid) P1 [M00, M10, M11, M12, M21, M22] rfl rfl
    (collectScores_cons v121000200 (collectScores_cons v021100200 (collectScores_cons v021010200 (collectScores_cons v021001200 (collectScores_cons v021000210 (collectScores_cons v021000201 collectScores_nil)))))) rfl

theorem v021110022 : readBoardAux P2 5 (⟨N0, N2, N1, N1, N1, N0, N0, N2, N2⟩ : Grid) P2 = some (ZP, some M20) :=
  readBoardAux_step P2 4 (⟨N0, N2, N1, N1, N1, N0, N0, N2, N2⟩ : Grid) P2 [M00, M12, M20] rfl rfl
    (collectScores_cons v221110022 (collectScores_cons v021112022 (collectScores_cons t021110222 collectScores_nil))) rfl

theorem v021101022 : readBoardAux P2 5 (⟨N0, N2, N1, N1, N0, N1, N0, N2, N2⟩ : Grid) P2 = some (ZP, some M11) :=
  readBoardAux_step P2 4 (⟨N0, N2, N1, N1, N0, N1, N0, N2, N2⟩ : Grid) P2 [M00, M11, M20] rfl rfl
    (collectScores_cons v221101022 (collectScores_cons t021121022 (collectScores_cons t021101222 collectScores_nil))) rfl

theorem v021100122 : readBoardAux P2 5 (⟨N0, N2, N1, N1, N0, N0, N1, N2, N2⟩ : Grid) P2 = some (ZP, some M11) :=
  readBoardAux_step P2 4 (⟨N0, N2, N1, N1, N0, N0, N1, N2, N2⟩ : Grid) P2 [M00, M11, M12] rfl rfl
    (collectScores_cons v221100122 (collectScores_cons t021120122 (collectScores_cons v021102122 collectScores_nil))) rfl

theorem v021100022 : readBoardAux P2 6 (⟨N0, N2, N1, N1, N0, N0, N0, N2, N2⟩ : Grid) P1 = some (ZP, some M00) :=
  readBoardAux_step P2 5 (⟨N0, N2, N1, N1, N0, N0, N0, N2, N2⟩ : Grid) P1 [M00, M11, M12, M20] rfl rfl
    (collectScores_cons v121100022 (collectScores_cons v021110022 (collectScores_cons v021101022 (collectScores_cons v021100122 collectScores_nil)))) rfl

theorem v021100020 : readBoardAux P2 7 (⟨N0, N2, N1, N1, N0, N0, N0, N2, N0⟩ : Grid) P2 = some (ZP, some M11) :=
  readBoardAux_step P2 6 (⟨N0, N2, N1, N1, N0, N0, N0, N2, N0⟩ : Grid) P2 [M00, M11, M12, M20, M22] rfl rfl
    (collectScores_cons v221100020 (collectScores_cons t021120020 (collectScores_cons v021102020 (collectScores_cons v021100220 (collectScores_cons v021100022 collectScores_nil))))) rfl

theorem v021011022 : readBoardAux P2 5 (⟨N0, N2, N1, N0, N1, N1, N0, N2, N2⟩ : Grid) P2 = some (ZP, some M20) :=
  readBoardAux_step P2 4 (⟨N0, N2, N1, N0, N1, N1, N0, N2, N2⟩ : Grid) P2 [M00, M10, M20] rfl rfl
    (collectScores_cons v221011022 (collectScores_cons v021211022 (collectScores_cons t021011222 collectScores_nil))) rfl

theorem t021010122 : readBoardAux P2 5 (⟨N0, N2, N1, N0, N1, N0, N1, N2, N2⟩ : Grid) P2 = some (ZM, none) :=
  rfl

theorem v021010022 : readBoardAux P2 6 (⟨N0, N2, N1, N0, N1, N0, N0, N2, N2⟩ : Grid) P1 = some (ZM, some M20) :=
  readBoardAux_step P2 5 (⟨N0, N2, N1, N0, N1, N0, N0, N2, N2⟩ : Grid) P1 [M00, M10, M12, M20] rfl rfl
    (collectScores_cons v121010022 (collectScores_cons v021110022 (collectScores_cons v021011022 (collectScores_cons t021010122 collectScores_nil)))) rfl

theorem v021010020 : readBoardAux P2 7 (⟨N0, N2, N1, N0, N1, N0, N0, N2, N0⟩ : Grid) P2 = some (ZM, some M00) :=
  readBoardAux_step P2 6 (⟨N0, N2, N1, N0, N1, N0, N0, N2, N0⟩ : Grid) P2 [M00, M10, M12, M20, M22] rfl rfl
    (collectScores_cons v221010020 (collectScores_cons v021210020 (collectScores_cons v021012020 (collectScores_cons v021010220 (collectScores_cons v021010022 collectScores_nil))))) rfl

theorem v021001122 : readBoardAux P2 5 (⟨N0, N2, N1, N0, N0, N1, N1, N2, N2⟩ : Grid) P2 = some (ZP, some M11) :=
  readBoardAux_step P2 4 (⟨N0, N2, N1, N0, N0, N1, N1, N2, N2⟩ : Grid) P2 [M00, M10, M11] rfl rfl
    (collectScores_cons v221001122 (collectScores_cons v021201122 (collectScores_cons t021021122 collectScores_nil))) rfl

theorem v021001022 : readBoardAux P2 6 (⟨N0, N2, N1, N0, N0, N1, N0, N2, N2⟩ : Grid) P1 = some (ZP, some M00) :=
  readBoardAux_step P2 5 (⟨N0, N2, N1, N0, N0, N1, N0, N2, N2⟩ : Grid) P1 [M00, M10, M11, M20] rfl rfl
    (collectScores_cons v121001022 (collectScores_cons v021101022 (collectScores_cons v021011022 (collectScores_cons v021001122 collectScores_nil)))) rfl

theorem v021001020 : readBoardAux P2 7 (⟨N0, N2, N1, N0, N0, N1, N0, N2, N0⟩ : Grid) P2 = some (ZP, some M11) :=
  readBoardAux_step P2 6 (⟨N0, N2, N1, N0, N0, N1, N0, N2, N0⟩ : Grid) P2 [M00, M10, M11, M20, M22] rfl rfl
    (collectScores_cons v221001020 (collectScores_cons v021201020 (collectScores_cons t021021020 (collectScores_cons v021001220 (collectScores_cons v021001022 collectScores_nil))))) rfl

theorem v021000122 : readBoardAux P2 6 (⟨N0, N2, N1, N0, N0, N0, N1, N2, N2⟩ : Grid) P1 = some (ZM, some M11) :=
  readBoardAux_step P2 5 (⟨N0, N2, N1, N0, N0, N0, N1, N2, N2⟩ : Grid) P1 [M00, M10, M11, M12] rfl rfl
    (collectScores_cons v121000122 (collectScores_cons v021100122 (collectScores_cons t021010122 (collectScores_cons v021001122 collectScores_nil)))) rfl

theorem v021000120 : readBoardAux P2 7 (⟨N0, N2, N1, N0, N0, N0, N1, N2, N0⟩ : Grid) P2 = some (ZP, some M11) :=
  readBoardAux_step P2 6 (⟨N0, N2, N1, N0, N0, N0, N1, N2, N0⟩ : Grid) P2 [M00, M10, M11, M12, M22] rfl rfl
    (collectScores_cons v221000120 (collectScores_cons v021200120 (collectScores_cons t021020120 (collectScores_cons v021002120 (collectScores_cons v021000122 collectScores_nil))))) rfl

theorem v021000021 : readBoardAux P2 7 (⟨N0, N2, N1, N0, N0, N0, N0, N2, N1⟩ : Grid) P2 = some (ZP, some M11) :=
  readBoardAux_step P2 6 (⟨N0, N2, N1, N0, N0, N0, N0, N2, N1⟩ : Grid) P2 [M00, M10, M11, M12, M20] rfl rfl
    (collectScores_cons v221000021 (collectScores_cons v021200021 (collectScores_cons t021020021 (collectScores_cons v021002021 (collectScores_cons v021000221 collectScores_nil))))) rfl

theorem v021000020 : readBoardAux P2 8 (⟨N0, N2, N1, N0, N0, N0, N0, N2, N0⟩ : Grid) P1 = some (ZM, some M11) :=
  readBoardAux_step P2 7 (⟨N0, N2, N1, N0, N0, N0, N0, N2, N0⟩ : Grid) P1 [M00, M10, M11, M12, M20, M22] rfl rfl
    (collectScores_cons v121000020 (collectScores_cons v021100020 (collectScores_cons v021010020 (collectScores_cons v021001020 (collectScores_cons v021000120 (collectScores_cons v021000021 collectScores_nil)))))) rfl

theorem v021100002 : readBoardAux P2 7 (⟨N0, N2, N1, N1, N0, N0, N0, N0, N2⟩ : Grid) P2 = some (ZP, some M11) :=
  readBoardAux_step P2 6 (⟨N0, N2, N1, N1, N0, N0, N0, N0, N2⟩ : Grid) P2 [M00, M11, M12, M20, M21] rfl rfl
    (collectScores_cons v221100002 (collectScores_cons v021120002 (collectScores_cons v021102002 (collectScores_cons v021100202 (collectScores_cons v021100022 collectScores_nil))))) rfl

theorem v021010002 : readBoardAux P2 7 (⟨N0, N2, N1, N0, N1, N0, N0, N0, N2⟩ : Grid) P2 = some (Z0, some M20) :=
  readBoardAux_step P2 6 (⟨N0, N2, N1, N0, N1, N0, N0, N0, N2⟩ : Grid) P2 [M00, M10, M12, M20, M21] rfl rfl
    (collectScores_cons v221010002 (collectScores_cons v021210002 (collectScores_cons v021012002 (collectScores_cons v021010202 (collectScores_cons v021010022 collectScores_nil))))) rfl

theorem v021001002 : readBoardAux P2 7 (⟨N0, N2, N1, N0, N0, N1, N0, N0, N2⟩ : Grid) P2 = some (ZP, some M10) :=
  readBoardAux_step P2 6 (⟨N0, N2, N1, N0, N0, N1, N0, N0, N2⟩ : Grid) P2 [M00, M10, M11, M20, M21] rfl rfl
    (collectScores_cons v221001002 (collectScores_cons v021201002 (collectScores_cons v021021002 (collectScores_cons v021001202 (collectScores_cons v021001022 collectScores_nil))))) rfl

theorem v021000102 : readBoardAux P2 7 (⟨N0, N2, N1, N0, N0, N0, N1, N0, N2⟩ : Grid) P2 = some (ZP, some M11) :=
  readBoardAux_step P2 6 (⟨N0, N2, N1, N0, N0, N0, N1, N0, N2⟩ : Grid) P2 [M00, M10, M11, M12, M21] rfl rfl
    (collectScores_cons v221000102 (collectScores_cons v021200102 (collectScores_cons v021020102 (collectScores_cons v021002102 (collectScores_cons v021000122 collectScores_nil))))) rfl

theorem v021000012 : readBoardAux P2 7 (⟨N0, N2, N1, N0, N0, N0, N0, N1, N2⟩ : Grid) P2 = some (Z0, some M00) :=
  readBoardAux_step P2 6 (⟨N0, N2, N1, N0, N0, N0, N0, N1, N2⟩ : Grid) P2 [M00, M10, M11, M12, M20] rfl rfl
    (collectScores_cons v221000012 (collectScores_cons v021200012 (collectScores_cons v021020012 (collectScores_cons v021002012 (collectScores_cons v021000212 collectScores_nil))))) rfl

theorem v021000002 : readBoardAux P2 8 (⟨N0, N2, N1, N0, N0, N0, N0, N0, N2⟩ : Grid) P1 = some (Z0, some M11) :=
  readBoardAux_step P2 7 (⟨N0, N2, N1, N0, N0, N0, N0, N0, N2⟩ : Grid) P1 [M00, M10, M11, M12, M20, M21] rfl rfl
    (collectScores_cons v121000002 (collectScores_cons v021100002 (collectScores_cons v021010002 (collectScores_cons v021001002 (collectScores_cons v021000102 (collectScores_cons v021000012 collectScores_nil)))))) rfl

theorem v021000000 : readBoardAux P2 9 (⟨N0, N2, N1, N0, N0, N0, N0, N0, N0⟩ : Grid) P2 = some (Z0, some M11) :=
  readBoardAux_step P2 8 (⟨N0, N2, N1, N0, N0, N0, N0, N0, N0⟩ : Grid) P2 [M00, M10, M11, M12, M20, M21, M22] rfl rfl
    (collectScores_cons v221000000 (collectScores_cons v021200000 (collectScores_cons v021020000 (collectScores_cons v021002000 (collectScores_cons v021000200 (collectScores_cons v021000020 (collectScores_cons v021000002 collectScores_nil))))))) rfl

theorem v022112121 : readBoardAux P2 3 (⟨N0, N2, N2, N1, N1, N2, N1, N2, N1⟩ : Grid) P2 = some (ZP, some M00) :=
  readBoardAux_step P2 2 (⟨N0, N2, N2, N1, N1, N2, N1, N2, N1⟩ : Grid) P2 [M00] rfl rfl
    (collectScores_cons t222112121 collectScores_nil) rfl

theorem v022112120 : readBoardAux P2 4 (⟨N0, N2, N2, N1, N1, N2, N1, N2, N0⟩ : Grid) P1 = some (ZM, some M00) :=
  readBoardAux_step P2 3 (⟨N0, N2, N2, N1, N1, N2, N1, N2, N0⟩ : Grid) P1 [M00, M22] rfl rfl
    (collectScores_cons t122112120 (collectScores_cons v022112121 collectScores_nil)) rfl

theorem t022112102 : readBoardAux P2 4 (⟨N0, N2, N2, N1, N1, N2, N1, N0, N2⟩ : Grid) P1 = some (ZP, none) :=
  rfl

theorem v022112100 : readBoardAux P2 5 (⟨N0, N2, N2, N1, N1, N2, N1, N0, N0⟩ : Grid) P2 = some (ZP, some M00) :=
  readBoardAux_step P2 4 (⟨N0, N2, N2, N1, N1, N2, N1, N0, N0⟩ : Grid) P2 [M00, M21, M22] rfl rfl
    (collectScores_cons t222112100 (collectScores_cons v022112120 (collectScores_cons t022112102 collectScores_nil))) rfl

theorem v022112211 : readBoardAux P2 3 (⟨N0, N2, N2, N1, N1, N2, N2, N1, N1⟩ : Grid) P2 = some (ZP, some M00) :=
  readBoardAux_step P2 2 (⟨N0, N2, N2, N1, N1, N2, N2, N1, N1⟩ : Grid) P2 [M00] rfl rfl
    (collectScores_cons t222112211 collectScores_nil) rfl

theorem v022112210 : readBoardAux P2 4 (⟨N0, N2, N2, N1, N1, N2, N2, N1, N0⟩ : Grid) P1 = some (ZP, some M00) :=
  readBoardAux_step P2 3 (⟨N0, N2, N2, N1, N1, N2, N2, N1, N0⟩ : Grid) P1 [M00, M22] rfl rfl
    (collectScores_cons v122112210 (collectScores_cons v022112211 collectScores_nil)) rfl

theorem t022112012 : readBoardAux P2 4 (⟨N0, N2, N2, N1, N1, N2, N0, N1, N2⟩ : Grid) P1 = some (ZP, none) :=
  rfl

theorem v022112010 : readBoardAux P2 5 (⟨N0, N2, N2, N1, N1, N2, N0, N1, N0⟩ : Grid) P2 = some (ZP, some M00) :=
  readBoardAux_step P2 4 (⟨N0, N2, N2, N1, N1, N2, N0, N1, N0⟩ : Grid) P2 [M00, M20, M22] rfl rfl
    (collectScores_cons t222112010 (collectScores_cons v022112210 (collectScores_cons t022112012 collectScores_nil))) rfl

theorem v022112201 : readBoardAux P2 4 (⟨N0, N2, N2, N1, N1, N2, N2, N0, N1⟩ : Grid) P1 = some (ZM, some M00) :=
  readBoardAux_step P2 3 (⟨N0, N2, N2, N1, N1, N2, N2, N0, N1⟩ : Grid) P1 [M00, M21] rfl rfl
    (collectScores_cons t122112201 (collectScores_cons v022112211 collectScores_nil)) rfl

theorem v022112021 : readBoardAux P2 4 (⟨N0, N2, N2, N1, N1, N2, N0, N2, N1⟩ : Grid) P1 = some (ZM, some M00) :=
  readBoardAux_step P2 3 (⟨N0, N2, N2, N1, N1, N2, N0, N2, N1⟩ : Grid) P1 [M00, M20] rfl rfl
    (collectScores_cons t122112021 (collectScores_cons v022112121 collectScores_nil)) rfl

theorem v022112001 : readBoardAux P2 5 (⟨N0, N2, N2, N1, N1, N2, N0, N0, N1⟩ : Grid) P2 = some (ZP, some M00) :=
  readBoardAux_step P2 4 (⟨N0, N2, N2, N1, N1, N2, N0, N0, N1⟩ : Grid) P2 [M00, M20, M21] rfl rfl
    (collectScores_cons t222112001 (collectScores_cons v022112201 (collectScores_cons v022112021 collectScores_nil))) rfl

theorem v022112000 : readBoardAux P2 6 (⟨N0, N2, N2, N1, N1, N2, N0, N0, N0⟩ : Grid) P1 = some (ZP, some M00) :=
  readBoardAux_step P2 5 (⟨N0, N2, N2, N1, N1, N2, N0, N0, N0⟩ : Grid) P1 [M00, M20, M21, M22] rfl rfl
    (collectScores_cons v122112000 (collectScores_cons v022112100 (collectScores_cons v022112010 (collectScores_cons v022112001 collectScores_nil)))) rfl

theorem t022111200 : readBoardAux P2 5 (⟨N0, N2, N2, N1, N1, N1, N2, N0, N0⟩ : Grid) P2 = some (ZM, none) :=
  rfl

theorem t022111212 : readBoardAux P2 3 (⟨N0, N2, N2, N1, N1, N1, N2, N1, N2⟩ : Grid) P2 = some (ZM, none) :=
  rfl

theorem v022110212 : readBoardAux P2 4 (⟨N0, N2, N2, N1, N1, N0, N2, N1, N2⟩ : Grid) P1 = some (ZM, some M12) :=
  readBoardAux_step P2 3 (⟨N0, N2, N2, N1, N1, N0, N2, N1, N2⟩ : Grid) P1 [M00, M12] rfl rfl
    (collectScores_cons v122110212 (collectScores_cons t022111212 collectScores_nil)) rfl

theorem v022110210 : readBoardAux P2 5 (⟨N0, N2, N2, N1, N1, N0, N2, N1, N0⟩ : Grid) P2 = some (ZP, some M00) :=
  readBoardAux_step P2 4 (⟨N0, N2, N2, N1, N1, N0, N2, N1, N0⟩ : Grid) P2 [M00, M12, M22] rfl rfl
    (collectScores_cons t222110210 (collectScores_cons v022112210 (collectScores_cons v022110212 collectScores_nil))) rfl

theorem t022111221 : readBoardAux P2 3 (⟨N0, N2, N2, N1, N1, N1, N2, N2, N1⟩ : Grid) P2 = some (ZM, none) :=
  rfl

theorem v022110221 : readBoardAux P2 4 (⟨N0, N2, N2, N1, N1, N0, N2, N2, N1⟩ : Grid) P1 = some (ZM, some M00) :=
  readBoardAux_step P2 3 (⟨N0, N2, N2, N1, N1, N0, N2, N2, N1⟩ : Grid) P1 [M00, M12] rfl rfl
    (collectScores_cons t122110221 (collectScores_cons t022111221 collectScores_nil)) rfl

theorem v022110201 : readBoardAux P2 5 (⟨N0, N2, N2, N1, N1, N0, N2, N0, N1⟩ : Grid) P2 = some (ZP, some M00) :=
  readBoardAux_step P2 4 (⟨N0, N2, N2, N1, N1, N0, N2, N0, N1⟩ : Grid) P2 [M00, M12, M21] rfl rfl
    (collectScores_cons t222110201 (collectScores_cons v022112201 (collectScores_cons v022110221 collectScores_nil))) rfl

theorem v022110200 : readBoardAux P2 6 (⟨N0, N2, N2, N1, N1, N0, N2, N0, N0⟩ : Grid) P1 = some (ZM, some M00) :=
  readBoardAux_step P2 5 (⟨N0, N2, N2, N1, N1, N0, N2, N0, N0⟩ : Grid) P1 [M00, M12, M21, M22] rfl rfl
    (collectScores_cons v122110200 (collectScores_cons t022111200 (collectScores_cons v022110210 (collectScores_cons v022110201 collectScores_nil)))) rfl

theorem t022111020 : readBoardAux P2 5 (⟨N0, N2, N2, N1, N1, N1, N0, N2, N0⟩ : Grid) P2 = some (ZM, none) :=
  rfl

theorem t022111122 : readBoardAux P2 3 (⟨N0, N2, N2, N1, N1, N1, N1, N2, N2⟩ : Grid) P2 = some (ZM, none) :=
  rfl

theorem v022110122 : readBoardAux P2 4 (⟨N0, N2, N2, N1, N1, N0, N1, N2, N2⟩ : Grid) P1 = some (ZM, some M00) :=
  readBoardAux_step P2 3 (⟨N0, N2, N2, N1, N1, N0, N1, N2, N2⟩ : Grid) P1 [M00, M12] rfl rfl
    (collectScores_cons t122110122 (collectScores_cons t022111122 collectScores_nil)) rfl

theorem v022110120 : readBoardAux P2 5 (⟨N0, N2, N2, N1, N1, N0, N1, N2, N0⟩ : Grid) P2 = some (ZP, some M00) :=
  readBoardAux_step P2 4 (⟨N0, N2, N2, N1, N1, N0, N1, N2, N0⟩ : Grid) P2 [M00, M12, M22] rfl rfl
    (collectScores_cons t222110120 (collectScores_cons v022112120 (collectScores_cons v022110122 collectScores_nil))) rfl

theorem v022110021 : readBoardAux P2 5 (⟨N0, N2, N2, N1, N1, N0, N0, N2, N1⟩ : Grid) P2 = some (ZP, some M00) :=
  readBoardAux_step P2 4 (⟨N0, N2, N2, N1, N1, N0, N0, N2, N1⟩ : Grid) P2 [M00, M12, M20] rfl rfl
    (collectScores_cons t222110021 (collectScores_cons v022112021 (collectScores_cons v022110221 collectScores_nil))) rfl

theorem v022110020 : readBoardAux P2 6 (⟨N0, N2, N2, N1, N1, N0, N0, N2, N0⟩ : Grid) P1 = some (ZM, some M00) :=
  readBoardAux_step P2 5 (⟨N0, N2, N2, N1, N1, N0, N0, N2, N0⟩ : Grid) P1 [M00, M12, M20, M22] rfl rfl
    (collectScores_cons v122110020 (collectScores_cons t022111020 (collectScores_cons v022110120 (collectScores_cons v022110021 collectScores_nil)))) rfl

theorem t022111002 : readBoardAux P2 5 (⟨N0, N2, N2, N1, N1, N1, N0, N0, N2⟩ : Grid) P2 = some (ZM, none) :=
  rfl

theorem v022110102 : readBoardAux P2 5 (⟨N0, N2, N2, N1, N1, N0, N1, N0, N2⟩ : Grid) P2 = some (ZP, some M00) :=
  readBoardAux_step P2 4 (⟨N0, N2, N2, N1, N1, N0, N1, N0, N2⟩ : Grid) P2 [M00, M12, M21] rfl rfl
    (collectScores_cons t222110102 (collectScores_cons t022112102 (collectScores_cons v022110122 collectScores_nil))) rfl

theorem v022110012 : readBoardAux P2 5 (⟨N0, N2, N2, N1, N1, N0, N0, N1, N2⟩ : Grid) P2 = some (ZP, some M00) :=
  readBoardAux_step P2 4 (⟨N0, N2, N2, N1, N1, N0, N0, N1, N2⟩ : Grid) P2 [M00, M12, M20] rfl rfl
    (collectScores_cons t222110012 (collectScores_cons t022112012 (collectScores_cons v022110212 collectScores_nil))) rfl

theorem v022110002 : readBoardAux P2 6 (⟨N0, N2, N2, N1, N1, N0, N0, N0, N2⟩ : Grid) P1 = some (ZM, some M12) :=
  readBoardAux_step P2 5 (⟨N0, N2, N2, N1, N1, N0, N0, N0, N2⟩ : Grid) P1 [M00, M12, M20, M21] rfl rfl
    (collectScores_cons v122110002 (collectScores_cons t022111002 (collectScores_cons v022110102 (collectScores_cons v022110012 collectScores_nil)))) rfl

theorem v022110000 : readBoardAux P2 7 (⟨N0, N2, N2, N1, N1, N0, N0, N0, N0⟩ : Grid) P2 = some (ZP, some M00) :=
  readBoardAux_step P2 6 (⟨N0, N2, N2, N1, N1, N0, N0, N0, N0⟩ : Grid) P2 [M00, M12, M20, M21, M22] rfl rfl
    (collectScores_cons t222110000 (collectScores_cons v022112000 (collectScores_cons v022110200 (collectScores_cons v022110020 (collectScores_cons v022110002 collectScores_nil))))) rfl

theorem t022121120 : readBoardAux P2 4 (⟨N0, N2, N2, N1, N2, N1, N1, N2, N0⟩ : Grid) P1 = some (ZP, none) :=
  rfl

theorem t222121112 : readBoardAux P2 2 (⟨N2, N2, N2, N1, N2, N1, N1, N1, N2⟩ : Grid) P1 = some (ZP, none) :=
  rfl

theorem v022121112 : readBoardAux P2 3 (⟨N0, N2, N2, N1, N2, N1, N1, N1, N2⟩ : Grid) P2 = some (ZP, some M00) :=
  readBoardAux_step P2 2 (⟨N0, N2, N2, N1, N2, N1, N1, N1, N2⟩ : Grid) P2 [M00] rfl rfl
    (collectScores_cons t222121112 collectScores_nil) rfl

theorem v022121102 : readBoardAux P2 4 (⟨N0, N2, N2, N1, N2, N1, N1, N0, N2⟩ : Grid) P1 = some (ZM, some M00) :=
  readBoardAux_step P2 3 (⟨N0, N2, N2, N1, N2, N1, N1, N0, N2⟩ : Grid) P1 [M00, M21] rfl rfl
    (collectScores_cons t122121102 (collectScores_cons v022121112 collectScores_nil)) rfl

theorem v022121100 : readBoardAux P2 5 (⟨N0, N2, N2, N1, N2, N1, N1, N0, N0⟩ : Grid) P2 = some (ZP, some M00) :=
  readBoardAux_step P2 4 (⟨N0, N2, N2, N1, N2, N1, N1, N0, N0⟩ : Grid) P2 [M00, M21, M22] rfl rfl
    (collectScores_cons t222121100 (collectScores_cons t022121120 (collectScores_cons v022121102 collectScores_nil))) rfl

theorem t022121210 : readBoardAux P2 4 (⟨N0, N2, N2, N1, N2, N1, N2, N1, N0⟩ : Grid) P1 = some (ZP, none) :=
  rfl

theorem v022121012 : readBoardAux P2 4 (⟨N0, N2, N2, N1, N2, N1, N0, N1, N2⟩ : Grid) P1 = some (ZP, some M00) :=
  readBoardAux_step P2 3 (⟨N0, N2, N2, N1, N2, N1, N0, N1, N2⟩ : Grid) P1 [M00, M20] rfl rfl
    (collectScores_cons v122121012 (collectScores_cons v022121112 collectScores_nil)) rfl

theorem v022121010 : readBoardAux P2 5 (⟨N0, N2, N2, N1, N2, N1, N0, N1, N0⟩ : Grid) P2 = some (ZP, some M00) :=
  readBoardAux_step P2 4 (⟨N0, N2, N2, N1, N2, N1, N0, N1, N0⟩ : Grid) P2 [M00, M20, M22] rfl rfl
    (collectScores_cons t222121010 (collectScores_cons t022121210 (collectScores_cons v022121012 collectScores_nil))) rfl

theorem t022121201 : readBoardAux P2 4 (⟨N0, N2, N2, N1, N2, N1, N2, N0, N1⟩ : Grid) P1 = some (ZP, none) :=
  rfl

theorem t022121021 : readBoardAux P2 4 (⟨N0, N2, N2, N1, N2, N1, N0, N2, N1⟩ : Grid) P1 = some (ZP, none) :=
  rfl

theorem v022121001 : readBoardAux P2 5 (⟨N0, N2, N2, N1, N2, N1, N0, N0, N1⟩ : Grid) P2 = some (ZP, some M00) :=
  readBoardAux_step P2 4 (⟨N0, N2, N2, N1, N2, N1, N0, N0, N1⟩ : Grid) P2 [M00, M20, M21] rfl rfl
    (collectScores_cons t222121001 (collectScores_cons t022121201 (collectScores_cons t022121021 collectScores_nil))) rfl

theorem v022121000 : readBoardAux P2 6 (⟨N0, N2, N2, N1, N2, N1, N0, N0, N0⟩ : Grid) P1 = some (ZP, some M00) :=
  readBoardAux_step P2 5 (⟨N0, N2, N2, N1, N2, N1, N0, N0, N0⟩ : Grid) P1 [M00, M20, M21, M22] rfl rfl
    (collectScores_cons v122121000 (collectScores_cons v022121100 (collectScores_cons v022121010 (collectScores_cons v022121001 collectScores_nil)))) rfl

theorem v022101212 : readBoardAux P2 4 (⟨N0, N2, N2, N1, N0, N1, N2, N1, N2⟩ : Grid) P1 = some (ZM, some M11) :=
  readBoardAux_step P2 3 (⟨N0, N2, N2, N1, N0, N1, N2, N1, N2⟩ : Grid) P1 [M00, M11] rfl rfl
    (collectScores_cons v122101212 (collectScores_cons t022111212 collectScores_nil)) rfl

theorem v022101210 : readBoardAux P2 5 (⟨N0, N2, N2, N1, N0, N1, N2, N1, N0⟩ : Grid) P2 = some (ZP, some M00) :=
  readBoardAux_step P2 4 (⟨N0, N2, N2, N1, N0, N1, N2, N1, N0⟩ : Grid) P2 [M00, M11, M22] rfl rfl
    (collectScores_cons t222101210 (collectScores_cons t022121210 (collectScores_cons v022101212 collectScores_nil))) rfl

theorem v022101221 : readBoardAux P2 4 (⟨N0, N2, N2, N1, N0, N1, N2, N2, N1⟩ : Grid) P1 = some (ZM, some M11) :=
  readBoardAux_step P2 3 (⟨N0, N2, N2, N1, N0, N1, N2, N2, N1⟩ : Grid) P1 [M00, M11] rfl rfl
    (collectScores_cons v122101221 (collectScores_cons t022111221 collectScores_nil)) rfl

theorem v022101201 : readBoardAux P2 5 (⟨N0, N2, N2, N1, N0, N1, N2, N0, N1⟩ : Grid) P2 = some (ZP, some M00) :=
  readBoardAux_step P2 4 (⟨N0, N2, N2, N1, N0, N1, N2, N0, N1⟩ : Grid) P2 [M00, M11, M21] rfl rfl
    (collectScores_cons t222101201 (collectScores_cons t022121201 (collectScores_cons v022101221 collectScores_nil))) rfl

theorem v022101200 : readBoardAux P2 6 (⟨N0, N2, N2, N1, N0, N1, N2, N0, N0⟩ : Grid) P1 = some (ZM, some M11) :=
  readBoardAux_step P2 5 (⟨N0, N2, N2, N1, N0, N1, N2, N0, N0⟩ : Grid) P1 [M00, M11, M21, M22] rfl rfl
    (collectScores_cons v122101200 (collectScores_cons t022111200 (collectScores_cons v022101210 (collectScores_cons v022101201 collectScores_nil)))) rfl

theorem v022101122 : readBoardAux P2 4 (⟨N0, N2, N2, N1, N0, N1, N1, N2, N2⟩ : Grid) P1 = some (ZM, some M00) :=
  readBoardAux_step P2 3 (⟨N0, N2, N2, N1, N0, N1, N1, N2, N2⟩ : Grid) P1 [M00, M11] rfl rfl
    (collectScores_cons t122101122 (collectScores_cons t022111122 collectScores_nil)) rfl

theorem v022101120 : readBoardAux P2 5 (⟨N0, N2, N2, N1, N0, N1, N1, N2, N0⟩ : Grid) P2 = some (ZP, some M00) :=
  readBoardAux_step P2 4 (⟨N0, N2, N2, N1, N0, N1, N1, N2, N0⟩ : Grid) P2 [M00, M11, M22] rfl rfl
    (collectScores_cons t222101120 (collectScores_cons t022121120 (collectScores_cons v022101122 collectScores_nil))) rfl

theorem v022101021 : readBoardAux P2 5 (⟨N0, N2, N2, N1, N0, N1, N0, N2, N1⟩ : Grid) P2 = some (ZP, some M00) :=
  readBoardAux_step P2 4 (⟨N0, N2, N2, N1, N0, N1, N0, N2, N1⟩ : Grid) P2 [M00, M11, M20] rfl rfl
    (collectScores_cons t222101021 (collectScores_cons t022121021 (collectScores_cons v022101221 collectScores_nil))) rfl

theorem v022101020 : readBoardAux P2 6 (⟨N0, N2, N2, N1, N0, N1, N0, N2, N0⟩ : Grid) P1 = some (ZM, some M11) :=
  readBoardAux_step P2 5 (⟨N0, N2, N2, N1, N0, N1, N0, N2, N0⟩ : Grid) P1 [M00, M11, M20, M22] rfl rfl
    (collectScores_cons v122101020 (collectScores_cons t022111020 (collectScores_cons v022101120 (collectScores_cons v022101021 collectScores_nil)))) rfl

theorem v022101102 : readBoardAux P2 5 (⟨N0, N2, N2, N1, N0, N1, N1, N0, N2⟩ : Grid) P2 = some (ZP, some M00) :=
  readBoardAux_step P2 4 (⟨N0, N2, N2, N1, N0, N1, N1, N0, N2⟩ : Grid) P2 [M00, M11, M21] rfl rfl
    (collectScores_cons t222101102 (collectScores_cons v022121102 (collectScores_cons v022101122 collectScores_nil))) rfl

theorem v022101012 : readBoardAux P2 5 (⟨N0, N2, N2, N1, N0, N1, N0, N1, N2⟩ : Grid) P2 = some (ZP, some M00) :=
  readBoardAux_step P2 4 (⟨N0, N2, N2, N1, N0, N1, N0, N1, N2⟩ : Grid) P2 [M00, M11, M20] rfl rfl
    (collectScores_cons t222101012 (collectScores_cons v022121012 (collectScores_cons v022101212 collectScores_nil))) rfl

theorem v022101002 : readBoardAux P2 6 (⟨N0, N2, N2, N1, N0, N1, N0, N0, N2⟩ : Grid) P1 = some (ZM, some M00) :=
  readBoardAux_step P2 5 (⟨N0, N2, N2, N1, N0, N1, N0, N0, N2⟩ : Grid) P1 [M00, M11, M20, M21] rfl rfl
    (collectScores_cons v122101002 (collectScores_cons t022111002 (collectScores_cons v022101102 (collectScores_cons v022101012 collectScores_nil)))) rfl

theorem v022101000 : readBoardAux P2 7 (⟨N0, N2, N2, N1, N0, N1, N0, N0, N0⟩ : Grid) P2 = some (ZP, some M00) :=
  readBoardAux_step P2 6 (⟨N0, N2, N2, N1, N0, N1, N0, N0, N0⟩ : Grid) P2 [M00, M11, M20, M21, M22] rfl rfl
    (collectScores_cons t222101000 (collectScores_cons v022121000 (collectScores_cons v022101200 (collectScores_cons v022101020 (collectScores_cons v022101002 collectScores_nil))))) rfl

theorem t022122111 : readBoardAux P2 3 (⟨N0, N2, N2, N1, N2, N2, N1, N1, N1⟩ : Grid) P2 = some (ZM, none) :=
  rfl

theorem v022122110 : readBoardAux P2 4 (⟨N0, N2, N2, N1, N2, N2, N1, N1, N0⟩ : Grid) P1 = some (ZM, some M00) :=
  readBoardAux_step P2 3 (⟨N0, N2, N2, N1, N2, N2, N1, N1, N0⟩ : Grid) P1 [M00, M22] rfl rfl
    (collectScores_cons t122122110 (collectScores_cons t022122111 collectScores_nil)) rfl

theorem v022120112 : readBoardAux P2 4 (⟨N0, N2, N2, N1, N2, N0, N1, N1, N2⟩ : Grid) P1 = some (ZM, some M00) :=
  readBoardAux_step P2 3 (⟨N0, N2, N2, N1, N2, N0, N1, N1, N2⟩ : Grid) P1 [M00, M12] rfl rfl
    (collectScores_cons t122120112 (collectScores_cons v022121112 collectScores_nil)) rfl

theorem v022120110 : readBoardAux P2 5 (⟨N0, N2, N2, N1, N2, N0, N1, N1, N0⟩ : Grid) P2 = some (ZP, some M00) :=
  readBoardAux_step P2 4 (⟨N0, N2, N2, N1, N2, N0, N1, N1, N0⟩ : Grid) P2 [M00, M12, M22] rfl rfl
    (collectScores_cons t222120110 (collectScores_cons v022122110 (collectScores_cons v022120112 collectScores_nil))) rfl

theorem v022122101 : readBoardAux P2 4 (⟨N0, N2, N2, N1, N2, N2, N1, N0, N1⟩ : Grid) P1 = some (ZM, some M00) :=
  readBoardAux_step P2 3 (⟨N0, N2, N2, N1, N2, N2, N1, N0, N1⟩ : Grid) P1 [M00, M21] rfl rfl
    (collectScores_cons t122122101 (collectScores_cons t022122111 collectScores_nil)) rfl

theorem t022120121 : readBoardAux P2 4 (⟨N0, N2, N2, N1, N2, N0, N1, N2, N1⟩ : Grid) P1 = some (ZP, none) :=
  rfl

theorem v022120101 : readBoardAux P2 5 (⟨N0, N2, N2, N1, N2, N0, N1, N0, N1⟩ : Grid) P2 = some (ZP, some M00) :=
  readBoardAux_step P2 4 (⟨N0, N2, N2, N1, N2, N0, N1, N0, N1⟩ : Grid) P2 [M00, M12, M21] rfl rfl
    (collectScores_cons t222120101 (collectScores_cons v022122101 (collectScores_cons t022120121 collectScores_nil))) rfl

theorem v022120100 : readBoardAux P2 6 (⟨N0, N2, N2, N1, N2, N0, N1, N0, N0⟩ : Grid) P1 = some (ZM, some M00) :=
  readBoardAux_step P2 5 (⟨N0, N2, N2, N1, N2, N0, N1, N0, N0⟩ : Grid) P1 [M00, M12, M21, M22] rfl rfl
    (collectScores_cons t122120100 (collectScores_cons v022121100 (collectScores_cons v022120110 (collectScores_cons v022120101 collectScores_nil)))) rfl

theorem t022102112 : readBoardAux P2 4 (⟨N0, N2, N2, N1, N0, N2, N1, N1, N2⟩ : Grid) P1 = some (ZP, none) :=
  rfl

theorem v022102110 : readBoardAux P2 5 (⟨N0, N2, N2, N1, N0, N2, N1, N1, N0⟩ : Grid) P2 = some (ZP, some M00) :=
  readBoardAux_step P2 4 (⟨N0, N2, N2, N1, N0, N2, N1, N1, N0⟩ : Grid) P2 [M00, M11, M22] rfl rfl
    (collectScores_cons t222102110 (collectScores_cons v022122110 (collectScores_cons t022102112 collectScores_nil))) rfl

theorem v022102121 : readBoardAux P2 4 (⟨N0, N2, N2, N1, N0, N2, N1, N2, N1⟩ : Grid) P1 = some (ZM, some M00) :=
  readBoardAux_step P2 3 (⟨N0, N2, N2, N1, N0, N2, N1, N2, N1⟩ : Grid) P1 [M00, M11] rfl rfl
    (collectScores_cons t122102121 (collectScores_cons v022112121 collectScores_nil)) rfl

theorem v022102101 : readBoardAux P2 5 (⟨N0, N2, N2, N1, N0, N2, N1, N0, N1⟩ : Grid) P2 = some (ZP, some M00) :=
  readBoardAux_step P2 4 (⟨N0, N2, N2, N1, N0, N2, N1, N0, N1⟩ : Grid) P2 [M00, M11, M21] rfl rfl
    (collectScores_cons t222102101 (collectScores_cons v022122101 (collectScores_cons v022102121 collectScores_nil))) rfl

theorem v022102100 : readBoardAux P2 6 (⟨N0, N2, N2, N1, N0, N2, N1, N0, N0⟩ : Grid) P1 = some (ZM, some M00) :=
  readBoardAux_step P2 5 (⟨N0, N2, N2, N1, N0, N2, N1, N0, N0⟩ : Grid) P1 [M00, M11, M21, M22] rfl rfl
    (collectScores_cons t122102100 (collectScores_cons v022112100 (collectScores_cons v022102110 (collectScores_cons v022102101 collectScores_nil)))) rfl

theorem v022100121 : readBoardAux P2 5 (⟨N0, N2, N2, N1, N0, N0, N1, N2, N1⟩ : Grid) P2 = some (ZP, some M00) :=
  readBoardAux_step P2 4 (⟨N0, N2, N2, N1, N0, N0, N1, N2, N1⟩ : Grid) P2 [M00, M11, M12] rfl rfl
    (collectScores_cons t222100121 (collectScores_cons t022120121 (collectScores_cons v022102121 collectScores_nil))) rfl

theorem v022100120 : readBoardAux P2 6 (⟨N0, N2, N2, N1, N0, N0, N1, N2, N0⟩ : Grid) P1 = some (ZM, some M00) :=
  readBoardAux_step P2 5 (⟨N0, N2, N2, N1, N0, N0, N1, N2, N0⟩ : Grid) P1 [M00, M11, M12, M22] rfl rfl
    (collectScores_cons t122100120 (collectScores_cons v022110120 (collectScores_cons v022101120 (collectScores_cons v022100121 collectScores_nil)))) rfl

theorem v022100112 : readBoardAux P2 5 (⟨N0, N2, N2, N1, N0, N0, N1, N1, N2⟩ : Grid) P2 = some (ZP, some M00) :=
  readBoardAux_step P2 4 (⟨N0, N2, N2, N1, N0, N0, N1, N1, N2⟩ : Grid) P2 [M00, M11, M12] rfl rfl
    (collectScores_cons t222100112 (collectScores_cons v022120112 (collectScores_cons t022102112 collectScores_nil))) rfl

theorem v022100102 : readBoardAux P2 6 (⟨N0, N2, N2, N1, N0, N0, N1, N0, N2⟩ : Grid) P1 = some (ZM, some M00) :=
  readBoardAux_step P2 5 (⟨N0, N2, N2, N1, N0, N0, N1, N0, N2⟩ : Grid) P1 [M00, M11, M12, M21] rfl rfl
    (collectScores_cons t122100102 (collectScores_cons v022110102 (collectScores_cons v022101102 (collectScores_cons v022100112 collectScores_nil)))) rfl

theorem v022100100 : readBoardAux P2 7 (⟨N0, N2, N2, N1, N0, N0, N1, N0, N0⟩ : Grid) P2 = some (ZP, some M00) :=
  readBoardAux_step P2 6 (⟨N0, N2, N2, N1, N0, N0, N1, N0, N0⟩ : Grid) P2 [M00, M11, M12, M21, M22] rfl rfl
    (collectScores_cons t222100100 (collectScores_cons v022120100 (collectScores_cons v022102100 (collectScores_cons v022100120 (collectScores_cons v022100102 collectScores_nil))))) rfl

theorem v022122011 : readBoardAux P2 4 (⟨N0, N2, N2, N1, N2, N2, N0, N1, N1⟩ : Grid) P1 = some (ZM, some M20) :=
  readBoardAux_step P2 3 (⟨N0, N2, N2, N1, N2, N2, N0, N1, N1⟩ : Grid) P1 [M00, M20] rfl rfl
    (collectScores_cons v122122011 (collectScores_cons t022122111 collectScores_nil)) rfl

theorem t022120211 : readBoardAux P2 4 (⟨N0, N2, N2, N1, N2, N0, N2, N1, N1⟩ : Grid) P1 = some (ZP, none) :=
  rfl

theorem v022120011 : readBoardAux P2 5 (⟨N0, N2, N2, N1, N2, N0, N0, N1, N1⟩ : Grid) P2 = some (ZP, some M00) :=
  readBoardAux_step P2 4 (⟨N0, N2, N2, N1, N2, N0, N0, N1, N1⟩ : Grid) P2 [M00, M12, M20] rfl rfl
    (collectScores_cons t222120011 (collectScores_cons v022122011 (collectScores_cons t022120211 collectScores_nil))) rfl

theorem v022120010 : readBoardAux P2 6 (⟨N0, N2, N2, N1, N2, N0, N0, N1, N0⟩ : Grid) P1 = some (ZP, some M00) :=
  readBoardAux_step P2 5 (⟨N0, N2, N2, N1, N2, N0, N0, N1, N0⟩ : Grid) P1 [M00, M12, M20, M22] rfl rfl
    (collectScores_cons v122120010 (collectScores_cons v022121010 (collectScores_cons v022120110 (collectScores_cons v022120011 collectScores_nil)))) rfl

theorem v022102211 : readBoardAux P2 4 (⟨N0, N2, N2, N1, N0, N2, N2, N1, N1⟩ : Grid) P1 = some (ZP, some M00) :=
  readBoardAux_step P2 3 (⟨N0, N2, N2, N1, N0, N2, N2, N1, N1⟩ : Grid) P1 [M00, M11] rfl rfl
    (collectScores_cons v122102211 (collectScores_cons v022112211 collectScores_nil)) rfl

theorem v022102011 : readBoardAux P2 5 (⟨N0, N2, N2, N1, N0, N2, N0, N1, N1⟩ : Grid) P2 = some (ZP, some M00) :=
  readBoardAux_step P2 4 (⟨N0, N2, N2, N1, N0, N2, N0, N1, N1⟩ : Grid) P2 [M00, M11, M20] rfl rfl
    (collectScores_cons t222102011 (collectScores_cons v022122011 (collectScores_cons v022102211 collectScores_nil))) rfl

theorem v022102010 : readBoardAux P2 6 (⟨N0, N2, N2, N1, N0, N2, N0, N1, N0⟩ : Grid) P1 = some (ZP, some M00) :=
  readBoardAux_step P2 5 (⟨N0, N2, N2, N1, N0, N2, N0, N1, N0⟩ : Grid) P1 [M00, M11, M20, M22] rfl rfl
    (collectScores_cons v122102010 (collectScores_cons v022112010 (collectScores_cons v022102110 (collectScores_cons v022102011 collectScores_nil)))) rfl

theorem v022100211 : readBoardAux P2 5 (⟨N0, N2, N2, N1, N0, N0, N2, N1, N1⟩ : Grid) P2 = some (ZP, some M00) :=
  readBoardAux_step P2 4 (⟨N0, N2, N2, N1, N0, N0, N2, N1, N1⟩ : Grid) P2 [M00, M11, M12] rfl rfl
    (collectScores_cons t222100211 (collectScores_cons t022120211 (collectScores_cons v022102211 collectScores_nil))) rfl

theorem v022100210 : readBoardAux P2 6 (⟨N0, N2, N2, N1, N0, N0, N2, N1, N0⟩ : Grid) P1 = some (ZP, some M00) :=
  readBoardAux_step P2 5 (⟨N0, N2, N2, N1, N0, N0, N2, N1, N0⟩ : Grid) P1 [M00, M11, M12, M22] rfl rfl
    (collectScores_cons v122100210 (collectScores_cons v022110210 (collectScores_cons v022101210 (collectScores_cons v022100211 collectScores_nil)))) rfl

theorem v022100012 : readBoardAux P2 6 (⟨N0, N2, N2, N1, N0, N0, N0, N1, N2⟩ : Grid) P1 = some (ZP, some M00) :=
  readBoardAux_step P2 5 (⟨N0, N2, N2, N1, N0, N0, N0, N1, N2⟩ : Grid) P1 [M00, M11, M12, M20] rfl rfl
    (collectScores_cons v122100012 (collectScores_cons v022110012 (collectScores_cons v022101012 (collectScores_cons v022100112 collectScores_nil)))) rfl

theorem v022100010 : readBoardAux P2 7 (⟨N0, N2, N2, N1, N0, N0, N0, N1, N0⟩ : Grid) P2 = some (ZP, some M00) :=
  readBoardAux_step P2 6 (⟨N0, N2, N2, N1, N0, N0, N0, N1, N0⟩ : Grid) P2 [M00, M11, M12, M20, M22] rfl rfl
    (collectScores_cons t222100010 (collectScores_cons v022120010 (collectScores_cons v022102010 (collectScores_cons v022100210 (collectScores_cons v022100012 collectScores_nil))))) rfl

theorem v022120001 : readBoardAux P2 6 (⟨N0, N2, N2, N1, N2, N0, N0, N0, N1⟩ : Grid) P1 = some (ZP, some M00) :=
  readBoardAux_step P2 5 (⟨N0, N2, N2, N1, N2, N0, N0, N0, N1⟩ : Grid) P1 [M00, M12, M20, M21] rfl rfl
    (collectScores_cons v122120001 (collectScores_cons v022121001 (collectScores_cons v022120101 (collectScores_cons v022120011 collectScores_nil)))) rfl

theorem v022102001 : readBoardAux P2 6 (⟨N0, N2, N2, N1, N0, N2, N0, N0, N1⟩ : Grid) P1 = some (ZM, some M00) :=
  readBoardAux_step P2 5 (⟨N0, N2, N2, N1, N0, N2, N0, N0, N1⟩ : Grid) P1 [M00, M11, M20, M21] rfl rfl
    (collectScores_cons v122102001 (collectScores_cons v022112001 (collectScores_cons v022102101 (collectScores_cons v022102011 collectScores_nil)))) rfl

theorem v022100201 : readBoardAux P2 6 (⟨N0, N2, N2, N1, N0, N0, N2, N0, N1⟩ : Grid) P1 = some (ZP, some M00) :=
  readBoardAux_step P2 5 (⟨N0, N2, N2, N1, N0, N0, N2, N0, N1⟩ : Grid) P1 [M00, M11, M12, M21] rfl rfl
    (collectScores_cons v122100201 (collectScores_cons v022110201 (collectScores_cons v022101201 (collectScores_cons v022100211 collectScores_nil)))) rfl

theorem v022100021 : readBoardAux P2 6 (⟨N0, N2, N2, N1, N0, N0, N0, N2, N1⟩ : Grid) P1 = some (ZP, some M00) :=
  readBoardAux_step P2 5 (⟨N0, N2, N2, N1, N0, N0, N0, N2, N1⟩ : Grid) P1 [M00, M11, M12, M20] rfl rfl
    (collectScores_cons v122100021 (collectScores_cons v022110021 (collectScores_cons v022101021 (collectScores_cons v022100121 collectScores_nil)))) rfl

theorem v022100001 : readBoardAux P2 7 (⟨N0, N2, N2, N1, N0, N0, N0, N0, N1⟩ : Grid) P2 = some (ZP, some M00) :=
  readBoardAux_step P2 6 (⟨N0, N2, N2, N1, N0, N0, N0, N0, N1⟩ : Grid) P2 [M00, M11, M12, M20, M21] rfl rfl
    (collectScores_cons t222100001 (collectScores_cons v022120001 (collectScores_cons v022102001 (collectScores_cons v022100201 (collectScores_cons v022100021 collectScores_nil))))) rfl

theorem v022100000 : readBoardAux P2 8 (⟨N0, N2, N2, N1, N0, N0, N0, N0, N0⟩ : Grid) P1 = some (ZM, some M00) :=
  readBoardAux_step P2 7 (⟨N0, N2, N2, N1, N0, N0, N0, N0, N0⟩ : Grid) P1 [M00, M11, M12, M20, M21, M22] rfl rfl
    (collectScores_cons v122100000 (collectScores_cons v022110000 (collectScores_cons v022101000 (collectScores_cons v022100100 (collectScores_cons v022100010 (collectScores_cons v022100001 collectScores_nil)))))) rfl

theorem v020121212 : readBoardAux P2 4 (⟨N0, N2, N0, N1, N2, N1, N2, N1, N2⟩ : Grid) P1 = some (ZP, some M00) :=
  readBoardAux_step P2 3 (⟨N0, N2, N0, N1, N2, N1, N2, N1, N2⟩ : Grid) P1 [M00, M02] rfl rfl
    (collectScores_cons v120121212 (collectScores_cons v021121212 collectScores_nil)) rfl

theorem v020121210 : readBoardAux P2 5 (⟨N0, N2, N0, N1, N2, N1, N2, N1, N0⟩ : Grid) P2 = some (ZP, some M00) :=
  readBoardAux_step P2 4 (⟨N0, N2, N0, N1, N2, N1, N2, N1, N0⟩ : Grid) P2 [M00, M02, M22] rfl rfl
    (collectScores_cons v220121210 (collectScores_cons t022121210 (collectScores_cons v020121212 collectScores_nil))) rfl

theorem t020121221 : readBoardAux P2 4 (⟨N0, N2, N0, N1, N2, N1, N2, N2, N1⟩ : Grid) P1 = some (ZP, none) :=
  rfl

theorem v020121201 : readBoardAux P2 5 (⟨N0, N2, N0, N1, N2, N1, N2, N0, N1⟩ : Grid) P2 = some (ZP, some M02) :=
  readBoardAux_step P2 4 (⟨N0, N2, N0, N1, N2, N1, N2, N0, N1⟩ : Grid) P2 [M00, M02, M21] rfl rfl
    (collectScores_cons v220121201 (collectScores_cons t022121201 (collectScores_cons t020121221 collectScores_nil))) rfl

theorem v020121200 : readBoardAux P2 6 (⟨N0, N2, N0, N1, N2, N1, N2, N0, N0⟩ : Grid) P1 = some (ZP, some M00) :=
  readBoardAux_step P2 5 (⟨N0, N2, N0, N1, N2, N1, N2, N0, N0⟩ : Grid) P1 [M00, M02, M21, M22] rfl rfl
    (collectScores_cons v120121200 (collectScores_cons v021121200 (collectScores_cons v020121210 (collectScores_cons v020121201 collectScores_nil)))) rfl

theorem t020121020 : readBoardAux P2 6 (⟨N0, N2, N0, N1, N2, N1, N0, N2, N0⟩ : Grid) P1 = some (ZP, none) :=
  rfl

theorem t020121122 : readBoardAux P2 4 (⟨N0, N2, N0, N1, N2, N1, N1, N2, N2⟩ : Grid) P1 = some (ZP, none) :=
  rfl

theorem v020121102 : readBoardAux P2 5 (⟨N0, N2, N0, N1, N2, N1, N1, N0, N2⟩ : Grid) P2 = some (ZP, some M00) :=
  readBoardAux_step P2 4 (⟨N0, N2, N0, N1, N2, N1, N1, N0, N2⟩ : Grid) P2 [M00, M02, M21] rfl rfl
    (collectScores_cons t220121102 (collectScores_cons v022121102 (collectScores_cons t020121122 collectScores_nil))) rfl

theorem v020121012 : readBoardAux P2 5 (⟨N0, N2, N0, N1, N2, N1, N0, N1, N2⟩ : Grid) P2 = some (ZP, some M00) :=
  readBoardAux_step P2 4 (⟨N0, N2, N0, N1, N2, N1, N0, N1, N2⟩ : Grid) P2 [M00, M02, M20] rfl rfl
    (collectScores_cons t220121012 (collectScores_cons v022121012 (collectScores_cons v020121212 collectScores_nil))) rfl

theorem v020121002 : readBoardAux P2 6 (⟨N0, N2, N0, N1, N2, N1, N0, N0, N2⟩ : Grid) P1 = some (ZP, some M00) :=
  readBoardAux_step P2 5 (⟨N0, N2, N0, N1, N2, N1, N0, N0, N2⟩ : Grid) P1 [M00, M02, M20, M21] rfl rfl
    (collectScores_cons v120121002 (collectScores_cons v021121002 (collectScores_cons v020121102 (collectScores_cons v020121012 collectScores_nil)))) rfl

theorem v020121000 : readBoardAux P2 7 (⟨N0, N2, N0, N1, N2, N1, N0, N0, N0⟩ : Grid) P2 = some (ZP, some M00) :=
  readBoardAux_step P2 6 (⟨N0, N2, N0, N1, N2, N1, N0, N0, N0⟩ : Grid) P2 [M00, M02, M20, M21, M22] rfl rfl
    (collectScores_cons v220121000 (collectScores_cons v022121000 (collectScores_cons v020121200 (collectScores_cons t020121020 (collectScores_cons v020121002 collectScores_nil))))) rfl

theorem v020122112 : readBoardAux P2 4 (⟨N0, N2, N0, N1, N2, N2, N1, N1, N2⟩ : Grid) P1 = some (ZM, some M00) :=
  readBoardAux_step P2 3 (⟨N0, N2, N0, N1, N2, N2, N1, N1, N2⟩ : Grid) P1 [M00, M02] rfl rfl
    (collectScores_cons t120122112 (collectScores_cons v021122112 collectScores_nil)) rfl

theorem v020122110 : readBoardAux P2 5 (⟨N0, N2, N0, N1, N2, N2, N1, N1, N0⟩ : Grid) P2 = some (ZM, some M00) :=
  readBoardAux_step P2 4 (⟨N0, N2, N0, N1, N2, N2, N1, N1, N0⟩ : Grid) P2 [M00, M02, M22] rfl rfl
    (collectScores_cons v220122110 (collectScores_cons v022122110 (collectScores_cons v020122112 collectScores_nil))) rfl

theorem t020122121 : readBoardAux P2 4 (⟨N0, N2, N0, N1, N2, N2, N1, N2, N1⟩ : Grid) P1 = some (ZP, none) :=
  rfl

theorem v020122101 : readBoardAux P2 5 (⟨N0, N2, N0, N1, N2, N2, N1, N0, N1⟩ : Grid) P2 = some (ZP, some M21) :=
  readBoardAux_step P2 4 (⟨N0, N2, N0, N1, N2, N2, N1, N0, N1⟩ : Grid) P2 [M00, M02, M21] rfl rfl
    (collectScores_cons v220122101 (collectScores_cons v022122101 (collectScores_cons t020122121 collectScores_nil))) rfl

theorem v020122100 : readBoardAux P2 6 (⟨N0, N2, N0, N1, N2, N2, N1, N0, N0⟩ : Grid) P1 = some (ZM, some M00) :=
  readBoardAux_step P2 5 (⟨N0, N2, N0, N1, N2, N2, N1, N0, N0⟩ : Grid) P1 [M00, M02, M21, M22] rfl rfl
    (collectScores_cons t120122100 (collectScores_cons v021122100 (collectScores_cons v020122110 (collectScores_cons v020122101 collectScores_nil)))) rfl

theorem t020120120 : readBoardAux P2 6 (⟨N0, N2, N0, N1, N2, N0, N1, N2, N0⟩ : Grid) P1 = some (ZP, none) :=
  rfl

theorem v020120112 : readBoardAux P2 5 (⟨N0, N2, N0, N1, N2, N0, N1, N1, N2⟩ : Grid) P2 = some (ZP, some M00) :=
  readBoardAux_step P2 4 (⟨N0, N2, N0, N1, N2, N0, N1, N1, N2⟩ : Grid) P2 [M00, M02, M12] rfl rfl
    (collectScores_cons t220120112 (collectScores_cons v022120112 (collectScores_cons v020122112 collectScores_nil))) rfl

theorem v020120102 : readBoardAux P2 6 (⟨N0, N2, N0, N1, N2, N0, N1, N0, N2⟩ : Grid) P1 = some (ZM, some M00) :=
  readBoardAux_step P2 5 (⟨N0, N2, N0, N1, N2, N0, N1, N0, N2⟩ : Grid) P1 [M00, M02, M12, M21] rfl rfl
    (collectScores_cons t120120102 (collectScores_cons v021120102 (collectScores_cons v020121102 (collectScores_cons v020120112 collectScores_nil)))) rfl

theorem v020120100 : readBoardAux P2 7 (⟨N0, N2, N0, N1, N2, N0, N1, N0, N0⟩ : Grid) P2 = some (ZP, some M00) :=
  readBoardAux_step P2 6 (⟨N0, N2, N0, N1, N2, N0, N1, N0, N0⟩ : Grid) P2 [M00, M02, M12, M21, M22] rfl rfl
    (collectScores_cons v220120100 (collectScores_cons v022120100 (collectScores_cons v020122100 (collectScores_cons t020120120 (collectScores_cons v020120102 collectScores_nil))))) rfl

theorem v020122211 : readBoardAux P2 4 (⟨N0, N2, N0, N1, N2, N2, N2, N1, N1⟩ : Grid) P1 = some (Z0, some M02) :=
  readBoardAux_step P2 3 (⟨N0, N2, N0, N1, N2, N2, N2, N1, N1⟩ : Grid) P1 [M00, M02] rfl rfl
    (collectScores_cons v120122211 (collectScores_cons v021122211 collectScores_nil)) rfl

theorem v020122011 : readBoardAux P2 5 (⟨N0, N2, N0, N1, N2, N2, N0, N1, N1⟩ : Grid) P2 = some (Z0, some M20) :=
  readBoardAux_step P2 4 (⟨N0, N2, N0, N1, N2, N2, N0, N1, N1⟩ : Grid) P2 [M00, M02, M20] rfl rfl
    (collectScores_cons v220122011 (collectScores_cons v022122011 (collectScores_cons v020122211 collectScores_nil))) rfl

theorem v020122010 : readBoardAux P2 6 (⟨N0, N2, N0, N1, N2, N2, N0, N1, N0⟩ : Grid) P1 = some (ZM, some M20) :=
  readBoardAux_step P2 5 (⟨N0, N2, N0, N1, N2, N2, N0, N1, N0⟩ : Grid) P1 [M00, M02, M20, M22] rfl rfl
    (collectScores_cons v120122010 (collectScores_cons v021122010 (collectScores_cons v020122110 (collectScores_cons v020122011 collectScores_nil)))) rfl

theorem v020120211 : readBoardAux P2 5 (⟨N0, N2, N0, N1, N2, N0, N2, N1, N1⟩ : Grid) P2 = some (ZP, some M02) :=
  readBoardAux_step P2 4 (⟨N0, N2, N0, N1, N2, N0, N2, N1, N1⟩ : Grid) P2 [M00, M02, M12] rfl rfl
    (collectScores_cons v220120211 (collectScores_cons t022120211 (collectScores_cons v020122211 collectScores_nil))) rfl

theorem v020120210 : readBoardAux P2 6 (⟨N0, N2, N0, N1, N2, N0, N2, N1, N0⟩ : Grid) P1 = some (Z0, some M02) :=
  readBoardAux_step P2 5 (⟨N0, N2, N0, N1, N2, N0, N2, N1, N0⟩ : Grid) P1 [M00, M02, M12, M22] rfl rfl
    (collectScores_cons v120120210 (collectScores_cons v021120210 (collectScores_cons v020121210 (collectScores_cons v020120211 collectScores_nil)))) rfl

theorem v020120012 : readBoardAux P2 6 (⟨N0, N2, N0, N1, N2, N0, N0, N1, N2⟩ : Grid) P1 = some (Z0, some M00) :=
  readBoardAux_step P2 5 (⟨N0, N2, N0, N1, N2, N0, N0, N1, N2⟩ : Grid) P1 [M00, M02, M12, M20] rfl rfl
    (collectScores_cons v120120012 (collectScores_cons v021120012 (collectScores_cons v020121012 (collectScores_cons v020120112 collectScores_nil)))) rfl

theorem v020120010 : readBoardAux P2 7 (⟨N0, N2, N0, N1, N2, N0, N0, N1, N0⟩ : Grid) P2 = some (ZP, some M00) :=
  readBoardAux_step P2 6 (⟨N0, N2, N0, N1, N2, N0, N0, N1, N0⟩ : Grid) P2 [M00, M02, M12, M20, M22] rfl rfl
    (collectScores_cons v220120010 (collectScores_cons v022120010 (collectScores_cons v020122010 (collectScores_cons v020120210 (collectScores_cons v020120012 collectScores_nil))))) rfl

theorem v020122001 : readBoardAux P2 6 (⟨N0, N2, N0, N1, N2, N2, N0, N0, N1⟩ : Grid) P1 = some (Z0, some M21) :=
  readBoardAux_step P2 5 (⟨N0, N2, N0, N1, N2, N2, N0, N0, N1⟩ : Grid) P1 [M00, M02, M20, M21] rfl rfl
    (collectScores_cons v120122001 (collectScores_cons v021122001 (collectScores_cons v020122101 (collectScores_cons v020122011 collectScores_nil)))) rfl

theorem v020120201 : readBoardAux P2 6 (⟨N0, N2, N0, N1, N2, N0, N2, N0, N1⟩ : Grid) P1 = some (ZP, some M00) :=
  readBoardAux_step P2 5 (⟨N0, N2, N0, N1, N2, N0, N2, N0, N1⟩ : Grid) P1 [M00, M02, M12, M21] rfl rfl
    (collectScores_cons v120120201 (collectScores_cons v021120201 (collectScores_cons v020121201 (collectScores_cons v020120211 collectScores_nil)))) rfl

theorem t020120021 : readBoardAux P2 6 (⟨N0, N2, N0, N1, N2, N0, N0, N2, N1⟩ : Grid) P1 = some (ZP, none) :=
  rfl

theorem v020120001 : readBoardAux P2 7 (⟨N0, N2, N0, N1, N2, N0, N0, N0, N1⟩ : Grid) P2 = some (ZP, some M00) :=
  readBoardAux_step P2 6 (⟨N0, N2, N0, N1, N2, N0, N0, N0, N1⟩ : Grid) P2 [M00, M02, M12, M20, M21] rfl rfl
    (collectScores_cons v220120001 (collectScores_cons v022120001 (collectScores_cons v020122001 (collectScores_cons v020120201 (collectScores_cons t020120021 collectScores_nil))))) rfl

theorem v020120000 : readBoardAux P2 8 (⟨N0, N2, N0, N1, N2, N0, N0, N0, N0⟩ : Grid) P1 = some (ZP, some M00) :=
  readBoardAux_step P2 7 (⟨N0, N2, N0, N1, N2, N0, N0, N0, N0⟩ : Grid) P1 [M00, M02, M12, M20, M21, M22] rfl rfl
    (collectScores_cons v120120000 (collectScores_cons v021120000 (collectScores_cons v020121000 (collectScores_cons v020120100 (collectScores_cons v020120010 (collectScores_cons v020120001 collectScores_nil)))))) rfl

theorem v020112212 : readBoardAux P2 4 (⟨N0, N2, N0, N1, N1, N2, N2, N1, N2⟩ : Grid) P1 = some (Z0, some M02) :=
  readBoardAux_step P2 3 (⟨N0, N2, N0, N1, N1, N2, N2, N1, N2⟩ : Grid) P1 [M00, M02] rfl rfl
    (collectScores_cons v120112212 (collectScores_cons v021112212 collectScores_nil)) rfl

theorem v020112210 : readBoardAux P2 5 (⟨N0, N2, N0, N1, N1, N2, N2, N1, N0⟩ : Grid) P2 = some (ZP, some M02) :=
  readBoardAux_step P2 4 (⟨N0, N2, N0, N1, N1, N2, N2, N1, N0⟩ : Grid) P2 [M00, M02, M22] rfl rfl
    (collectScores_cons v220112210 (collectScores_cons v022112210 (collectScores_cons v020112212 collectScores_nil))) rfl

theorem v020112221 : readBoardAux P2 4 (⟨N0, N2, N0, N1, N1, N2, N2, N2, N1⟩ : Grid) P1 = some (ZM, some M00) :=
  readBoardAux_step P2 3 (⟨N0, N2, N0, N1, N1, N2, N2, N2, N1⟩ : Grid) P1 [M00, M02] rfl rfl
    (collectScores_cons t120112221 (collectScores_cons v021112221 collectScores_nil)) rfl

theorem v020112201 : readBoardAux P2 5 (⟨N0, N2, N0, N1, N1, N2, N2, N0, N1⟩ : Grid) P2 = some (Z0, some M00) :=
  readBoardAux_step P2 4 (⟨N0, N2, N0, N1, N1, N2, N2, N0, N1⟩ : Grid) P2 [M00, M02, M21] rfl rfl
    (collectScores_cons v220112201 (collectScores_cons v022112201 (collectScores_cons v020112221 collectScores_nil))) rfl

theorem v020112200 : readBoardAux P2 6 (⟨N0, N2, N0, N1, N1, N2, N2, N0, N0⟩ : Grid) P1 = some (Z0, some M02) :=
  readBoardAux_step P2 5 (⟨N0, N2, N0, N1, N1, N2, N2, N0, N0⟩ : Grid) P1 [M00, M02, M21, M22] rfl rfl
    (collectScores_cons v120112200 (collectScores_cons v021112200 (collectScores_cons v020112210 (collectScores_cons v020112201 collectScores_nil)))) rfl

theorem v020112122 : readBoardAux P2 4 (⟨N0, N2, N0, N1, N1, N2, N1, N2, N2⟩ : Grid) P1 = some (ZM, some M00) :=
  readBoardAux_step P2 3 (⟨N0, N2, N0, N1, N1, N2, N1, N2, N2⟩ : Grid) P1 [M00, M02] rfl rfl
    (collectScores_cons t120112122 (collectScores_cons t021112122 collectScores_nil)) rfl

theorem v020112120 : readBoardAux P2 5 (⟨N0, N2, N0, N1, N1, N2, N1, N2, N0⟩ : Grid) P2 = some (ZM, some M00) :=
  readBoardAux_step P2 4 (⟨N0, N2, N0, N1, N1, N2, N1, N2, N0⟩ : Grid) P2 [M00, M02, M22] rfl rfl
    (collectScores_cons v220112120 (collectScores_cons v022112120 (collectScores_cons v020112122 collectScores_nil))) rfl

theorem v020112021 : readBoardAux P2 5 (⟨N0, N2, N0, N1, N1, N2, N0, N2, N1⟩ : Grid) P2 = some (Z0, some M00) :=
  readBoardAux_step P2 4 (⟨N0, N2, N0, N1, N1, N2, N0, N2, N1⟩ : Grid) P2 [M00, M02, M20] rfl rfl
    (collectScores_cons v220112021 (collectScores_cons v022112021 (collectScores_cons v020112221 collectScores_nil))) rfl

theorem v020112020 : readBoardAux P2 6 (⟨N0, N2, N0, N1, N1, N2, N0, N2, N0⟩ : Grid) P1 = some (ZM, some M00) :=
  readBoardAux_step P2 5 (⟨N0, N2, N0, N1, N1, N2, N0, N2, N0⟩ : Grid) P1 [M00, M02, M20, M22] rfl rfl
    (collectScores_cons v120112020 (collectScores_cons v021112020 (collectScores_cons v020112120 (collectScores_cons v020112021 collectScores_nil)))) rfl

theorem v020112102 : readBoardAux P2 5 (⟨N0, N2, N0, N1, N1, N2, N1, N0, N2⟩ : Grid) P2 = some (ZP, some M02) :=
  readBoardAux_step P2 4 (⟨N0, N2, N0, N1, N1, N2, N1, N0, N2⟩ : Grid) P2 [M00, M02, M21] rfl rfl
    (collectScores_cons v220112102 (collectScores_cons t022112102 (collectScores_cons v020112122 collectScores_nil))) rfl

theorem v020112012 : readBoardAux P2 5 (⟨N0, N2, N0, N1, N1, N2, N0, N1, N2⟩ : Grid) P2 = some (ZP, some M02) :=
  readBoardAux_step P2 4 (⟨N0, N2, N0, N1, N1, N2, N0, N1, N2⟩ : Grid) P2 [M00, M02, M20] rfl rfl
    (collectScores_cons v220112012 (collectScores_cons t022112012 (collectScores_cons v020112212 collectScores_nil))) rfl

theorem v020112002 : readBoardAux P2 6 (⟨N0, N2, N0, N1, N1, N2, N0, N0, N2⟩ : Grid) P1 = some (Z0, some M02) :=
  readBoardAux_step P2 5 (⟨N0, N2, N0, N1, N1, N2, N0, N0, N2⟩ : Grid) P1 [M00, M02, M20, M21] rfl rfl
    (collectScores_cons v120112002 (collectScores_cons v021112002 (collectScores_cons v020112102 (collectScores_cons v020112012 collectScores_nil)))) rfl

theorem v020112000 : readBoardAux P2 7 (⟨N0, N2, N0, N1, N1, N2, N0, N0, N0⟩ : Grid) P2 = some (ZP, some M02) :=
  readBoardAux_step P2 6 (⟨N0, N2, N0, N1, N1, N2, N0, N0, N0⟩ : Grid) P2 [M00, M02, M20, M21, M22] rfl rfl
    (collectScores_cons v220112000 (collectScores_cons v022112000 (collectScores_cons v020112200 (collectScores_cons v020112020 (collectScores_cons v020112002 collectScores_nil))))) rfl

theorem v020102121 : readBoardAux P2 5 (⟨N0, N2, N0, N1, N0, N2, N1, N2, N1⟩ : Grid) P2 = some (ZP, some M00) :=
  readBoardAux_step P2 4 (⟨N0, N2, N0, N1, N0, N2, N1, N2, N1⟩ : Grid) P2 [M00, M02, M11] rfl rfl
    (collectScores_cons v220102121 (collectScores_cons v022102121 (collectScores_cons t020122121 collectScores_nil))) rfl

theorem v020102120 : readBoardAux P2 6 (⟨N0, N2, N0, N1, N0, N2, N1, N2, N0⟩ : Grid) P1 = some (ZM, some M00) :=
  readBoardAux_step P2 5 (⟨N0, N2, N0, N1, N0, N2, N1, N2, N0⟩ : Grid) P1 [M00, M02, M11, M22] rfl rfl
    (collectScores_cons t120102120 (collectScores_cons v021102120 (collectScores_cons v020112120 (collectScores_cons v020102121 collectScores_nil)))) rfl

theorem v020102112 : readBoardAux P2 5 (⟨N0, N2, N0, N1, N0, N2, N1, N1, N2⟩ : Grid) P2 = some (ZP, some M00) :=
  readBoardAux_step P2 4 (⟨N0, N2, N0, N1, N0, N2, N1, N1, N2⟩ : Grid) P2 [M00, M02, M11] rfl rfl
    (collectScores_cons v220102112 (collectScores_cons t022102112 (collectScores_cons v020122112 collectScores_nil))) rfl

theorem v020102102 : readBoardAux P2 6 (⟨N0, N2, N0, N1, N0, N2, N1, N0, N2⟩ : Grid) P1 = some (ZM, some M00) :=
  readBoardAux_step P2 5 (⟨N0, N2, N0, N1, N0, N2, N1, N0, N2⟩ : Grid) P1 [M00, M02, M11, M21] rfl rfl
    (collectScores_cons t120102102 (collectScores_cons v021102102 (collectScores_cons v020112102 (collectScores_cons v020102112 collectScores_nil)))) rfl

theorem v020102100 : readBoardAux P2 7 (⟨N0, N2, N0, N1, N0, N2, N1, N0, N0⟩ : Grid) P2 = some (ZP, some M00) :=
  readBoardAux_step P2 6 (⟨N0, N2, N0, N1, N0, N2, N1, N0, N0⟩ : Grid) P2 [M00, M02, M11, M21, M22] rfl rfl
    (collectScores_cons v220102100 (collectScores_cons v022102100 (collectScores_cons v020122100 (collectScores_cons v020102120 (collectScores_cons v020102102 collectScores_nil))))) rfl

theorem v020102211 : readBoardAux P2 5 (⟨N0, N2, N0, N1, N0, N2, N2, N1, N1⟩ : Grid) P2 = some (ZP, some M02) :=
  readBoardAux_step P2 4 (⟨N0, N2, N0, N1, N0, N2, N2, N1, N1⟩ : Grid) P2 [M00, M02, M11] rfl rfl
    (collectScores_cons v220102211 (collectScores_cons v022102211 (collectScores_cons v020122211 collectScores_nil))) rfl

theorem v020102210 : readBoardAux P2 6 (⟨N0, N2, N0, N1, N0, N2, N2, N1, N0⟩ : Grid) P1 = some (Z0, some M02) :=
  readBoardAux_step P2 5 (⟨N0, N2, N0, N1, N0, N2, N2, N1, N0⟩ : Grid) P1 [M00, M02, M11, M22] rfl rfl
    (collectScores_cons v120102210 (collectScores_cons v021102210 (collectScores_cons v020112210 (collectScores_cons v020102211 collectScores_nil)))) rfl

theorem v020102012 : readBoardAux P2 6 (⟨N0, N2, N0, N1, N0, N2, N0, N1, N2⟩ : Grid) P1 = some (Z0, some M02) :=
  readBoardAux_step P2 5 (⟨N0, N2, N0, N1, N0, N2, N0, N1, N2⟩ : Grid) P1 [M00, M02, M11, M20] rfl rfl
    (collectScores_cons v120102012 (collectScores_cons v021102012 (collectScores_cons v020112012 (collectScores_cons v020102112 collectScores_nil)))) rfl

theorem v020102010 : readBoardAux P2 7 (⟨N0, N2, N0, N1, N0, N2, N0, N1, N0⟩ : Grid) P2 = some (ZP, some M02) :=
  readBoardAux_step P2 6 (⟨N0, N2, N0, N1, N0, N2, N0, N1, N0⟩ : Grid) P2 [M00, M02, M11, M20, M22] rfl rfl
    (collectScores_cons v220102010 (collectScores_cons v022102010 (collectScores_cons v020122010 (collectScores_cons v020102210 (collectScores_cons v020102012 collectScores_nil))))) rfl

theorem v020102201 : readBoardAux P2 6 (⟨N0, N2, N0, N1, N0, N2, N2, N0, N1⟩ : Grid) P1 = some (Z0, some M02) :=
  readBoardAux_step P2 5 (⟨N0, N2, N0, N1, N0, N2, N2, N0, N1⟩ : Grid) P1 [M00, M02, M11, M21] rfl rfl
    (collectScores_cons v120102201 (collectScores_cons v021102201 (collectScores_cons v020112201 (collectScores_cons v020102211 collectScores_nil)))) rfl

theorem v020102021 : readBoardAux P2 6 (⟨N0, N2, N0, N1, N0, N2, N0, N2, N1⟩ : Grid) P1 = some (Z0, some M11) :=
  readBoardAux_step P2 5 (⟨N0, N2, N0, N1, N0, N2, N0, N2, N1⟩ : Grid) P1 [M00, M02, M11, M20] rfl rfl
    (collectScores_cons v120102021 (collectScores_cons v021102021 (collectScores_cons v020112021 (collectScores_cons v020102121 collectScores_nil)))) rfl

theorem v020102001 : readBoardAux P2 7 (⟨N0, N2, N0, N1, N0, N2, N0, N0, N1⟩ : Grid) P2 = some (Z0, some M00) :=
  readBoardAux_step P2 6 (⟨N0, N2, N0, N1, N0, N2, N0, N0, N1⟩ : Grid) P2 [M00, M02, M11, M20, M21] rfl rfl
    (collectScores_cons v220102001 (collectScores_cons v022102001 (collectScores_cons v020122001 (collectScores_cons v020102201 (collectScores_cons v020102021 collectScores_nil))))) rfl

theorem v020102000 : readBoardAux P2 8 (⟨N0, N2, N0, N1, N0, N2, N0, N0, N0⟩ : Grid) P1 = some (Z0, some M02) :=
  readBoardAux_step P2 7 (⟨N0, N2, N0, N1, N0, N2, N0, N0, N0⟩ : Grid) P1 [M00, M02, M11, M20, M21, M22] rfl rfl
    (collectScores_cons v120102000 (collectScores_cons v021102000 (collectScores_cons v020112000 (collectScores_cons v020102100 (collectScores_cons v020102010 (collectScores_cons v020102001 collectScores_nil)))))) rfl

theorem t020111220 : readBoardAux P2 5 (⟨N0, N2, N0, N1, N1, N1, N2, N2, N0⟩ : Grid) P2 = some (ZM, none) :=
  rfl

theorem v020110221 : readBoardAux P2 5 (⟨N0, N2, N0, N1, N1, N0, N2, N2, N1⟩ : Grid) P2 = some (ZM, some M00) :=
  readBoardAux_step P2 4 (⟨N0, N2, N0, N1, N1, N0, N2, N2, N1⟩ : Grid) P2 [M00, M02, M12] rfl rfl
    (collectScores_cons v220110221 (collectScores_cons v022110221 (collectScores_cons v020112221 collectScores_nil))) rfl

theorem v020110220 : readBoardAux P2 6 (⟨N0, N2, N0, N1, N1, N0, N2, N2, N0⟩ : Grid) P1 = some (ZM, some M12) :=
  readBoardAux_step P2 5 (⟨N0, N2, N0, N1, N1, N0, N2, N2, N0⟩ : Grid) P1 [M00, M02, M12, M22] rfl rfl
    (collectScores_cons v120110220 (collectScores_cons v021110220 (collectScores_cons t020111220 (collectScores_cons v020110221 collectScores_nil)))) rfl

theorem t020111202 : readBoardAux P2 5 (⟨N0, N2, N0, N1, N1, N1, N2, N0, N2⟩ : Grid) P2 = some (ZM, none) :=
  rfl

theorem v020110212 : readBoardAux P2 5 (⟨N0, N2, N0, N1, N1, N0, N2, N1, N2⟩ : Grid) P2 = some (Z0, some M12) :=
  readBoardAux_step P2 4 (⟨N0, N2, N0, N1, N1, N0, N2, N1, N2⟩ : Grid) P2 [M00, M02, M12] rfl rfl
    (collectScores_cons v220110212 (collectScores_cons v022110212 (collectScores_cons v020112212 collectScores_nil))) rfl

theorem v020110202 : readBoardAux P2 6 (⟨N0, N2, N0, N1, N1, N0, N2, N0, N2⟩ : Grid) P1 = some (ZM, some M12) :=
  readBoardAux_step P2 5 (⟨N0, N2, N0, N1, N1, N0, N2, N0, N2⟩ : Grid) P1 [M00, M02, M12, M21] rfl rfl
    (collectScores_cons v120110202 (collectScores_cons v021110202 (collectScores_cons t020111202 (collectScores_cons v020110212 collectScores_nil)))) rfl

theorem v020110200 : readBoardAux P2 7 (⟨N0, N2, N0, N1, N1, N0, N2, N0, N0⟩ : Grid) P2 = some (Z0, some M12) :=
  readBoardAux_step P2 6 (⟨N0, N2, N0, N1, N1, N0, N2, N0, N0⟩ : Grid) P2 [M00, M02, M12, M21, M22] rfl rfl
    (collectScores_cons v220110200 (collectScores_cons v022110200 (collectScores_cons v020112200 (collectScores_cons v020110220 (collectScores_cons v020110202 collectScores_nil))))) rfl

theorem v020101221 : readBoardAux P2 5 (⟨N0, N2, N0, N1, N0, N1, N2, N2, N1⟩ : Grid) P2 = some (ZP, some M11) :=
  readBoardAux_step P2 4 (⟨N0, N2, N0, N1, N0, N1, N2, N2, N1⟩ : Grid) P2 [M00, M02, M11] rfl rfl
    (collectScores_cons v220101221 (collectScores_cons v022101221 (collectScores_cons t020121221 collectScores_nil))) rfl

theorem v020101220 : readBoardAux P2 6 (⟨N0, N2, N0, N1, N0, N1, N2, N2, N0⟩ : Grid) P1 = some (ZM, some M11) :=
  readBoardAux_step P2 5 (⟨N0, N2, N0, N1, N0, N1, N2, N2, N0⟩ : Grid) P1 [M00, M02, M11, M22] rfl rfl
    (collectScores_cons v120101220 (collectScores_cons v021101220 (collectScores_cons t020111220 (collectScores_cons v020101221 collectScores_nil)))) rfl

theorem v020101212 : readBoardAux P2 5 (⟨N0, N2, N0, N1, N0, N1, N2, N1, N2⟩ : Grid) P2 = some (ZP, some M11) :=
  readBoardAux_step P2 4 (⟨N0, N2, N0, N1, N0, N1, N2, N1, N2⟩ : Grid) P2 [M00, M02, M11] rfl rfl
    (collectScores_cons v220101212 (collectScores_cons v022101212 (collectScores_cons v020121212 collectScores_nil))) rfl

theorem v020101202 : readBoardAux P2 6 (⟨N0, N2, N0, N1, N0, N1, N2, N0, N2⟩ : Grid) P1 = some (ZM, some M11) :=
  readBoardAux_step P2 5 (⟨N0, N2, N0, N1, N0, N1, N2, N0, N2⟩ : Grid) P1 [M00, M02, M11, M21] rfl rfl
    (collectScores_cons v120101202 (collectScores_cons v021101202 (collectScores_cons t020111202 (collectScores_cons v020101212 collectScores_nil)))) rfl

theorem v020101200 : readBoardAux P2 7 (⟨N0, N2, N0, N1, N0, N1, N2, N0, N0⟩ : Grid) P2 = some (ZP, some M11) :=
  readBoardAux_step P2 6 (⟨N0, N2, N0, N1, N0, N1, N2, N0, N0⟩ : Grid) P2 [M00, M02, M11, M21, M22] rfl rfl
    (collectScores_cons v220101200 (collectScores_cons v022101200 (collectScores_cons v020121200 (collectScores_cons v020101220 (collectScores_cons v020101202 collectScores_nil))))) rfl

theorem v020100212 : readBoardAux P2 6 (⟨N0, N2, N0, N1, N0, N0, N2, N1, N2⟩ : Grid) P1 = some (Z0, some M02) :=
  readBoardAux_step P2 5 (⟨N0, N2, N0, N1, N0, N0, N2, N1, N2⟩ : Grid) P1 [M00, M02, M11, M12] rfl rfl
    (collectScores_cons v120100212 (collectScores_cons v021100212 (collectScores_cons v020110212 (collectScores_cons v020101212 collectScores_nil)))) rfl

theorem v020100210 : readBoardAux P2 7 (⟨N0, N2, N0, N1, N0, N0, N2, N1, N0⟩ : Grid) P2 = some (ZP, some M02) :=
  readBoardAux_step P2 6 (⟨N0, N2, N0, N1, N0, N0, N2, N1, N0⟩ : Grid) P2 [M00, M02, M11, M12, M22] rfl rfl
    (collectScores_cons v220100210 (collectScores_cons v022100210 (collectScores_cons v020120210 (collectScores_cons v020102210 (collectScores_cons v020100212 collectScores_nil))))) rfl

theorem v020100221 : readBoardAux P2 6 (⟨N0, N2, N0, N1, N0, N0, N2, N2, N1⟩ : Grid) P1 = some (ZM, some M11) :=
  readBoardAux_step P2 5 (⟨N0, N2, N0, N1, N0, N0, N2, N2, N1⟩ : Grid) P1 [M00, M02, M11, M12] rfl rfl
    (collectScores_cons v120100221 (collectScores_cons v021100221 (collectScores_cons v020110221 (collectScores_cons v020101221 collectScores_nil)))) rfl

theorem v020100201 : readBoardAux P2 7 (⟨N0, N2, N0, N1, N0, N0, N2, N0, N1⟩ : Grid) P2 = some (ZP, some M02) :=
  readBoardAux_step P2 6 (⟨N0, N2, N0, N1, N0, N0, N2, N0, N1⟩ : Grid) P2 [M00, M02, M11, M12, M21] rfl rfl
    (collectScores_cons v220100201 (collectScores_cons v022100201 (collectScores_cons v020120201 (collectScores_cons v020102201 (collectScores_cons v020100221 collectScores_nil))))) rfl

theorem v020100200 : readBoardAux P2 8 (⟨N0, N2, N0, N1, N0, N0, N2, N0, N0⟩ : Grid) P1 = some (Z0, some M11) :=
  readBoardAux_step P2 7 (⟨N0, N2, N0, N1, N0, N0, N2, N0, N0⟩ : Grid) P1 [M00, M02, M11, M12, M21, M22] rfl rfl
    (collectScores_cons v120100200 (collectScores_cons v021100200 (collectScores_cons v020110200 (collectScores_cons v020101200 (collectScores_cons v020100210 (collectScores_cons v020100201 collectScores_nil)))))) rfl

theorem t020111022 : readBoardAux P2 5 (⟨N0, N2, N0, N1, N1, N1, N0, N2, N2⟩ : Grid) P2 = some (ZM, none) :=
  rfl

theorem v020110122 : readBoardAux P2 5 (⟨N0, N2, N0, N1, N1, N0, N1, N2, N2⟩ : Grid) P2 = some (ZM, some M00) :=
  readBoardAux_step P2 4 (⟨N0, N2, N0, N1, N1, N0, N1, N2, N2⟩ : Grid) P2 [M00, M02, M12] rfl rfl
    (collectScores_cons v220110122 (collectScores_cons v022110122 (collectScores_cons v020112122 collectScores_nil))) rfl

theorem v020110022 : readBoardAux P2 6 (⟨N0, N2, N0, N1, N1, N0, N0, N2, N2⟩ : Grid) P1 = some (ZM, some M12) :=
  readBoardAux_step P2 5 (⟨N0, N2, N0, N1, N1, N0, N0, N2, N2⟩ : Grid) P1 [M00, M02, M12, M20] rfl rfl
    (collectScores_cons v120110022 (collectScores_cons v021110022 (collectScores_cons t020111022 (collectScores_cons v020110122 collectScores_nil)))) rfl

theorem v020110020 : readBoardAux P2 7 (⟨N0, N2, N0, N1, N1, N0, N0, N2, N0⟩ : Grid) P2 = some (ZM, some M00) :=
  readBoardAux_step P2 6 (⟨N0, N2, N0, N1, N1, N0, N0, N2, N0⟩ : Grid) P2 [M00, M02, M12, M20, M22] rfl rfl
    (collectScores_cons v220110020 (collectScores_cons v022110020 (collectScores_cons v020112020 (collectScores_cons v020110220 (collectScores_cons v020110022 collectScores_nil))))) rfl

theorem v020101122 : readBoardAux P2 5 (⟨N0, N2, N0, N1, N0, N1, N1, N2, N2⟩ : Grid) P2 = some (ZP, some M11) :=
  readBoardAux_step P2 4 (⟨N0, N2, N0, N1, N0, N1, N1, N2, N2⟩ : Grid) P2 [M00, M02, M11] rfl rfl
    (collectScores_cons v220101122 (collectScores_cons v022101122 (collectScores_cons t020121122 collectScores_nil))) rfl

theorem v020101022 : readBoardAux P2 6 (⟨N0, N2, N0, N1, N0, N1, N0, N2, N2⟩ : Grid) P1 = some (ZM, some M11) :=
  readBoardAux_step P2 5 (⟨N0, N2, N0, N1, N0, N1, N0, N2, N2⟩ : Grid) P1 [M00, M02, M11, M20] rfl rfl
    (collectScores_cons v120101022 (collectScores_cons v021101022 (collectScores_cons t020111022 (collectScores_cons v020101122 collectScores_nil)))) rfl

theorem v020101020 : readBoardAux P2 7 (⟨N0, N2, N0, N1, N0, N1, N0, N2, N0⟩ : Grid) P2 = some (ZP, some M11) :=
  readBoardAux_step P2 6 (⟨N0, N2, N0, N1, N0, N1, N0, N2, N0⟩ : Grid) P2 [M00, M02, M11, M20, M22] rfl rfl
    (collectScores_cons v220101020 (collectScores_cons v022101020 (collectScores_cons t020121020 (collectScores_cons v020101220 (collectScores_cons v020101022 collectScores_nil))))) rfl

theorem v020100122 : readBoardAux P2 6 (⟨N0, N2, N0, N1, N0, N0, N1, N2, N2⟩ : Grid) P1 = some (ZM, some M00) :=
  readBoardAux_step P2 5 (⟨N0, N2, N0, N1, N0, N0, N1, N2, N2⟩ : Grid) P1 [M00, M02, M11, M12] rfl rfl
    (collectScores_cons t120100122 (collectScores_cons v021100122 (collectScores_cons v020110122 (collectScores_cons v020101122 collectScores_nil)))) rfl

theorem v020100120 : readBoardAux P2 7 (⟨N0, N2, N0, N1, N0, N0, N1, N2, N0⟩ : Grid) P2 = some (ZP, some M00) :=
  readBoardAux_step P2 6 (⟨N0, N2, N0, N1, N0, N0, N1, N2, N0⟩ : Grid) P2 [M00, M02, M11, M12, M22] rfl rfl
    (collectScores_cons v220100120 (collectScores_cons v022100120 (collectScores_cons t020120120 (collectScores_cons v020102120 (collectScores_cons v020100122 collectScores_nil))))) rfl

theorem v020100021 : readBoardAux P2 7 (⟨N0, N2, N0, N1, N0, N0, N0, N2, N1⟩ : Grid) P2 = some (ZP, some M00) :=
  readBoardAux_step P2 6 (⟨N0, N2, N0, N1, N0, N0, N0, N2, N1⟩ : Grid) P2 [M00, M02, M11, M12, M20] rfl rfl
    (collectScores_cons v220100021 (collectScores_cons v022100021 (collectScores_cons t020120021 (collectScores_cons v020102021 (collectScores_cons v020100221 collectScores_nil))))) rfl

theorem v020100020 : readBoardAux P2 8 (⟨N0, N2, N0, N1, N0, N0, N0, N2, N0⟩ : Grid) P1 = some (ZM, some M11) :=
  readBoardAux_step P2 7 (⟨N0, N2, N0, N1, N0, N0, N0, N2, N0⟩ : Grid) P1 [M00, M02, M11, M12, M20, M22] rfl rfl
    (collectScores_cons v120100020 (collectScores_cons v021100020 (collectScores_cons v020110020 (collectScores_cons v020101020 (collectScores_cons v020100120 (collectScores_cons v020100021 collectScores_nil)))))) rfl

theorem v020110002 : readBoardAux P2 7 (⟨N0, N2, N0, N1, N1, N0, N0, N0, N2⟩ : Grid) P2 = some (Z0, some M12) :=
  readBoardAux_step P2 6 (⟨N0, N2, N0, N1, N1, N0, N0, N0, N2⟩ : Grid) P2 [M00, M02, M12, M20, M21] rfl rfl
    (collectScores_cons v220110002 (collectScores_cons v022110002 (collectScores_cons v020112002 (collectScores_cons v020110202 (collectScores_cons v020110022 collectScores_nil))))) rfl

theorem v020101002 : readBoardAux P2 7 (⟨N0, N2, N0, N1, N0, N1, N0, N0, N2⟩ : Grid) P2 = some (ZP, some M11) :=
  readBoardAux_step P2 6 (⟨N0, N2, N0, N1, N0, N1, N0, N0, N2⟩ : Grid) P2 [M00, M02, M11, M20, M21] rfl rfl
    (collectScores_cons v220101002 (collectScores_cons v022101002 (collectScores_cons v020121002 (collectScores_cons v020101202 (collectScores_cons v020101022 collectScores_nil))))) rfl

theorem v020100102 : readBoardAux P2 7 (⟨N0, N2, N0, N1, N0, N0, N1, N0, N2⟩ : Grid) P2 = some (ZP, some M00) :=
  readBoardAux_step P2 6 (⟨N0, N2, N0, N1, N0, N0, N1, N0, N2⟩ : Grid) P2 [M00, M02, M11, M12, M21] rfl rfl
    (collectScores_cons v220100102 (collectScores_cons v022100102 (collectScores_cons v020120102 (collectScores_cons v020102102 (collectScores_cons v020100122 collectScores_nil))))) rfl

theorem v020100012 : readBoardAux P2 7 (⟨N0, N2, N0, N1, N0, N0, N0, N1, N2⟩ : Grid) P2 = some (ZP, some M00) :=
  readBoardAux_step P2 6 (⟨N0, N2, N0, N1, N0, N0, N0, N1, N2⟩ : Grid) P2 [M00, M02, M11, M12, M20] rfl rfl
    (collectScores_cons v220100012 (collectScores_cons v022100012 (collectScores_cons v020120012 (collectScores_cons v020102012 (collectScores_cons v020100212 collectScores_nil))))) rfl

theorem v020100002 : readBoardAux P2 8 (⟨N0, N2, N0, N1, N0, N0, N0, N0, N2⟩ : Grid) P1 = some (Z0, some M11) :=
  readBoardAux_step P2 7 (⟨N0, N2, N0, N1, N0, N0, N0, N0, N2⟩ : Grid) P1 [M00, M02, M11, M12, M20, M21] rfl rfl
    (collectScores_cons v120100002 (collectScores_cons v021100002 (collectScores_cons v020110002 (collectScores_cons v020101002 (collectScores_cons v020100102 (collectScores_cons v020100012 collectScores_nil)))))) rfl

theorem v020100000 : readBoardAux P2 9 (⟨N0, N2, N0, N1, N0, N0, N0, N0, N0⟩ : Grid) P2 = some (ZP, some M00) :=
  readBoardAux_step P2 8 (⟨N0, N2, N0, N1, N0, N0, N0, N0, N0⟩ : Grid) P2 [M00, M02, M11, M12, M20, M21, M22] rfl rfl
    (collectScores_cons v220100000 (collectScores_cons v022100000 (collectScores_cons v020120000 (collectScores_cons v020102000 (collectScores_cons v020100200 (collectScores_cons v020100020 (collectScores_cons v020100002 collectScores_nil))))))) rfl

theorem v022211121 : readBoardAux P2 3 (⟨N0, N2, N2, N2, N1, N1, N1, N2, N1⟩ : Grid) P2 = some (ZP, some M00) :=
  readBoardAux_step P2 2 (⟨N0, N2, N2, N2, N1, N1, N1, N2, N1⟩ : Grid) P2 [M00] rfl rfl
    (collectScores_cons t222211121 collectScores_nil) rfl

theorem v022211120 : readBoardAux P2 4 (⟨N0, N2, N2, N2, N1, N1, N1, N2, N0⟩ : Grid) P1 = some (Z0, some M00) :=
  readBoardAux_step P2 3 (⟨N0, N2, N2, N2, N1, N1, N1, N2, N0⟩ : Grid) P1 [M00, M22] rfl rfl
    (collectScores_cons v122211120 (collectScores_cons v022211121 collectScores_nil)) rfl

theorem v022211112 : readBoardAux P2 3 (⟨N0, N2, N2, N2, N1, N1, N1, N1, N2⟩ : Grid) P2 = some (ZP, some M00) :=
  readBoardAux_step P2 2 (⟨N0, N2, N2, N2, N1, N1, N1, N1, N2⟩ : Grid) P2 [M00] rfl rfl
    (collectScores_cons t222211112 collectScores_nil) rfl

theorem v022211102 : readBoardAux P2 4 (⟨N0, N2, N2, N2, N1, N1, N1, N0, N2⟩ : Grid) P1 = some (Z0, some M00) :=
  readBoardAux_step P2 3 (⟨N0, N2, N2, N2, N1, N1, N1, N0, N2⟩ : Grid) P1 [M00, M21] rfl rfl
    (collectScores_cons v122211102 (collectScores_cons v022211112 collectScores_nil)) rfl

theorem v022211100 : readBoardAux P2 5 (⟨N0, N2, N2, N2, N1, N1, N1, N0, N0⟩ : Grid) P2 = some (ZP, some M00) :=
  readBoardAux_step P2 4 (⟨N0, N2, N2, N2, N1, N1, N1, N0, N0⟩ : Grid) P2 [M00, M21, M22] rfl rfl
    (collectScores_cons t222211100 (collectScores_cons v022211120 (collectScores_cons v022211102 collectScores_nil))) rfl

theorem t222211211 : readBoardAux P2 2 (⟨N2, N2, N2, N2, N1, N1, N2, N1, N1⟩ : Grid) P1 = some (ZP, none) :=
  rfl

theorem v022211211 : readBoardAux P2 3 (⟨N0, N2, N2, N2, N1, N1, N2, N1, N1⟩ : Grid) P2 = some (ZP, some M00) :=
  readBoardAux_step P2 2 (⟨N0, N2, N2, N2, N1, N1, N2, N1, N1⟩ : Grid) P2 [M00] rfl rfl
    (collectScores_cons t222211211 collectScores_nil) rfl

theorem v022211210 : readBoardAux P2 4 (⟨N0, N2, N2, N2, N1, N1, N2, N1, N0⟩ : Grid) P1 = some (Z0, some M00) :=
  readBoardAux_step P2 3 (⟨N0, N2, N2, N2, N1, N1, N2, N1, N0⟩ : Grid) P1 [M00, M22] rfl rfl
    (collectScores_cons v122211210 (collectScores_cons v022211211 collectScores_nil)) rfl

theorem v022211012 : readBoardAux P2 4 (⟨N0, N2, N2, N2, N1, N1, N0, N1, N2⟩ : Grid) P1 = some (Z0, some M00) :=
  readBoardAux_step P2 3 (⟨N0, N2, N2, N2, N1, N1, N0, N1, N2⟩ : Grid) P1 [M00, M20] rfl rfl
    (collectScores_cons v122211012 (collectScores_cons v022211112 collectScores_nil)) rfl

theorem v022211010 : readBoardAux P2 5 (⟨N0, N2, N2, N2, N1, N1, N0, N1, N0⟩ : Grid) P2 = some (ZP, some M00) :=
  readBoardAux_step P2 4 (⟨N0, N2, N2, N2, N1, N1, N0, N1, N0⟩ : Grid) P2 [M00, M20, M22] rfl rfl
    (collectScores_cons t222211010 (collectScores_cons v022211210 (collectScores_cons v022211012 collectScores_nil))) rfl

theorem v022211201 : readBoardAux P2 4 (⟨N0, N2, N2, N2, N1, N1, N2, N0, N1⟩ : Grid) P1 = some (ZM, some M00) :=
  readBoardAux_step P2 3 (⟨N0, N2, N2, N2, N1, N1, N2, N0, N1⟩ : Grid) P1 [M00, M21] rfl rfl
    (collectScores_cons t122211201 (collectScores_cons v022211211 collectScores_nil)) rfl

theorem v022211021 : readBoardAux P2 4 (⟨N0, N2, N2, N2, N1, N1, N0, N2, N1⟩ : Grid) P1 = some (ZM, some M00) :=
  readBoardAux_step P2 3 (⟨N0, N2, N2, N2, N1, N1, N0, N2, N1⟩ : Grid) P1 [M00, M20] rfl rfl
    (collectScores_cons t122211021 (collectScores_cons v022211121 collectScores_nil)) rfl

theorem v022211001 : readBoardAux P2 5 (⟨N0, N2, N2, N2, N1, N1, N0, N0, N1⟩ : Grid) P2 = some (ZP, some M00) :=
  readBoardAux_step P2 4 (⟨N0, N2, N2, N2, N1, N1, N0, N0, N1⟩ : Grid) P2 [M00, M20, M21] rfl rfl
    (collectScores_cons t222211001 (collectScores_cons v022211201 (collectScores_cons v022211021 collectScores_nil))) rfl

theorem v022211000 : readBoardAux P2 6 (⟨N0, N2, N2, N2, N1, N1, N0, N0, N0⟩ : Grid) P1 = some (Z0, some M00) :=
  readBoardAux_step P2 5 (⟨N0, N2, N2, N2, N1, N1, N0, N0, N0⟩ : Grid) P1 [M00, M20, M21, M22] rfl rfl
    (collectScores_cons v122211000 (collectScores_cons v022211100 (collectScores_cons v022211010 (collectScores_cons v022211001 collectScores_nil)))) rfl

theorem v022011212 : readBoardAux P2 4 (⟨N0, N2, N2, N0, N1, N1, N2, N1, N2⟩ : Grid) P1 = some (ZM, some M10) :=
  readBoardAux_step P2 3 (⟨N0, N2, N2, N0, N1, N1, N2, N1, N2⟩ : Grid) P1 [M00, M10] rfl rfl
    (collectScores_cons v122011212 (collectScores_cons t022111212 collectScores_nil)) rfl

theorem v022011210 : readBoardAux P2 5 (⟨N0, N2, N2, N0, N1, N1, N2, N1, N0⟩ : Grid) P2 = some (ZP, some M00) :=
  readBoardAux_step P2 4 (⟨N0, N2, N2, N0, N1, N1, N2, N1, N0⟩ : Grid) P2 [M00, M10, M22] rfl rfl
    (collectScores_cons t222011210 (collectScores_cons v022211210 (collectScores_cons v022011212 collectScores_nil))) rfl

theorem v022011221 : readBoardAux P2 4 (⟨N0, N2, N2, N0, N1, N1, N2, N2, N1⟩ : Grid) P1 = some (ZM, some M00) :=
  readBoardAux_step P2 3 (⟨N0, N2, N2, N0, N1, N1, N2, N2, N1⟩ : Grid) P1 [M00, M10] rfl rfl
    (collectScores_cons t122011221 (collectScores_cons t022111221 collectScores_nil)) rfl

theorem v022011201 : readBoardAux P2 5 (⟨N0, N2, N2, N0, N1, N1, N2, N0, N1⟩ : Grid) P2 = some (ZP, some M00) :=
  readBoardAux_step P2 4 (⟨N0, N2, N2, N0, N1, N1, N2, N0, N1⟩ : Grid) P2 [M00, M10, M21] rfl rfl
    (collectScores_cons t222011201 (collectScores_cons v022211201 (collectScores_cons v022011221 collectScores_nil))) rfl

theorem v022011200 : readBoardAux P2 6 (⟨N0, N2, N2, N0, N1, N1, N2, N0, N0⟩ : Grid) P1 = some (ZM, some M00) :=
  readBoardAux_step P2 5 (⟨N0, N2, N2, N0, N1, N1, N2, N0, N0⟩ : Grid) P1 [M00, M10, M21, M22] rfl rfl
    (collectScores_cons v122011200 (collectScores_cons t022111200 (collectScores_cons v022011210 (collectScores_cons v022011201 collectScores_nil)))) rfl

theorem v022011122 : readBoardAux P2 4 (⟨N0, N2, N2, N0, N1, N1, N1, N2, N2⟩ : Grid) P1 = some (ZM, some M10) :=
  readBoardAux_step P2 3 (⟨N0, N2, N2, N0, N1, N1, N1, N2, N2⟩ : Grid) P1 [M00, M10] rfl rfl
    (collectScores_cons v122011122 (collectScores_cons t022111122 collectScores_nil)) rfl

theorem v022011120 : readBoardAux P2 5 (⟨N0, N2, N2, N0, N1, N1, N1, N2, N0⟩ : Grid) P2 = some (ZP, some M00) :=
  readBoardAux_step P2 4 (⟨N0, N2, N2, N0, N1, N1, N1, N2, N0⟩ : Grid) P2 [M00, M10, M22] rfl rfl
    (collectScores_cons t222011120 (collectScores_cons v022211120 (collectScores_cons v022011122 collectScores_nil))) rfl

theorem v022011021 : readBoardAux P2 5 (⟨N0, N2, N2, N0, N1, N1, N0, N2, N1⟩ : Grid) P2 = some (ZP, some M00) :=
  readBoardAux_step P2 4 (⟨N0, N2, N2, N0, N1, N1, N0, N2, N1⟩ : Grid) P2 [M00, M10, M20] rfl rfl
    (collectScores_cons t222011021 (collectScores_cons v022211021 (collectScores_cons v022011221 collectScores_nil))) rfl

theorem v022011020 : readBoardAux P2 6 (⟨N0, N2, N2, N0, N1, N1, N0, N2, N0⟩ : Grid) P1 = some (ZM, some M00) :=
  readBoardAux_step P2 5 (⟨N0, N2, N2, N0, N1, N1, N0, N2, N0⟩ : Grid) P1 [M00, M10, M20, M22] rfl rfl
    (collectScores_cons v122011020 (collectScores_cons t022111020 (collectScores_cons v022011120 (collectScores_cons v022011021 collectScores_nil)))) rfl

theorem v022011102 : readBoardAux P2 5 (⟨N0, N2, N2, N0, N1, N1, N1, N0, N2⟩ : Grid) P2 = some (ZP, some M00) :=
  readBoardAux_step P2 4 (⟨N0, N2, N2, N0, N1, N1, N1, N0, N2⟩ : Grid) P2 [M00, M10, M21] rfl rfl
    (collectScores_cons t222011102 (collectScores_cons v022211102 (collectScores_cons v022011122 collectScores_nil))) rfl

theorem v022011012 : readBoardAux P2 5 (⟨N0, N2, N2, N0, N1, N1, N0, N1, N2⟩ : Grid) P2 = some (ZP, some M00) :=
  readBoardAux_step P2 4 (⟨N0, N2, N2, N0, N1, N1, N0, N1, N2⟩ : Grid) P2 [M00, M10, M20] rfl rfl
    (collectScores_cons t222011012 (collectScores_cons v022211012 (collectScores_cons v022011212 collectScores_nil))) rfl

theorem v022011002 : readBoardAux P2 6 (⟨N0, N2, N2, N0, N1, N1, N0, N0, N2⟩ : Grid) P1 = some (ZM, some M10) :=
  readBoardAux_step P2 5 (⟨N0, N2, N2, N0, N1, N1, N0, N0, N2⟩ : Grid) P1 [M00, M10, M20, M21] rfl rfl
    (collectScores_cons v122011002 (collectScores_cons t022111002 (collectScores_cons v022011102 (collectScores_cons v022011012 collectScores_nil)))) rfl

theorem v022011000 : readBoardAux P2 7 (⟨N0, N2, N2, N0, N1, N1, N0, N0, N0⟩ : Grid) P2 = some (ZP, some M00) :=
  readBoardAux_step P2 6 (⟨N0, N2, N2, N0, N1, N1, N0, N0, N0⟩ : Grid) P2 [M00, M10, M20, M21, M22] rfl rfl
    (collectScores_cons t222011000 (collectScores_cons v022211000 (collectScores_cons v022011200 (collectScores_cons v022011020 (collectScores_cons v022011002 collectScores_nil))))) rfl

theorem t022212111 : readBoardAux P2 3 (⟨N0, N2, N2, N2, N1, N2, N1, N1, N1⟩ : Grid) P2 = some (ZM, none) :=
  rfl

theorem v022212110 : readBoardAux P2 4 (⟨N0, N2, N2, N2, N1, N2, N1, N1, N0⟩ : Grid) P1 = some (ZM, some M22) :=
  readBoardAux_step P2 3 (⟨N0, N2, N2, N2, N1, N2, N1, N1, N0⟩ : Grid) P1 [M00, M22] rfl rfl
    (collectScores_cons v122212110 (collectScores_cons t022212111 collectScores_nil)) rfl

theorem v022210112 : readBoardAux P2 4 (⟨N0, N2, N2, N2, N1, N0, N1, N1, N2⟩ : Grid) P1 = some (ZP, some M00) :=
  readBoardAux_step P2 3 (⟨N0, N2, N2, N2, N1, N0, N1, N1, N2⟩ : Grid) P1 [M00, M12] rfl rfl
    (collectScores_cons v122210112 (collectScores_cons v022211112 collectScores_nil)) rfl

theorem v022210110 : readBoardAux P2 5 (⟨N0, N2, N2, N2, N1, N0, N1, N1, N0⟩ : Grid) P2 = some (ZP, some M00) :=
  readBoardAux_step P2 4 (⟨N0, N2, N2, N2, N1, N0, N1, N1, N0⟩ : Grid) P2 [M00, M12, M22] rfl rfl
    (collectScores_cons t222210110 (collectScores_cons v022212110 (collectScores_cons v022210112 collectScores_nil))) rfl

theorem v022212101 : readBoardAux P2 4 (⟨N0, N2, N2, N2, N1, N2, N1, N0, N1⟩ : Grid) P1 = some (ZM, some M00) :=
  readBoardAux_step P2 3 (⟨N0, N2, N2, N2, N1, N2, N1, N0, N1⟩ : Grid) P1 [M00, M21] rfl rfl
    (collectScores_cons t122212101 (collectScores_cons t022212111 collectScores_nil)) rfl

theorem v022210121 : readBoardAux P2 4 (⟨N0, N2, N2, N2, N1, N0, N1, N2, N1⟩ : Grid) P1 = some (ZM, some M00) :=
  readBoardAux_step P2 3 (⟨N0, N2, N2, N2, N1, N0, N1, N2, N1⟩ : Grid) P1 [M00, M12] rfl rfl
    (collectScores_cons t122210121 (collectScores_cons v022211121 collectScores_nil)) rfl

theorem v022210101 : readBoardAux P2 5 (⟨N0, N2, N2, N2, N1, N0, N1, N0, N1⟩ : Grid) P2 = some (ZP, some M00) :=
  readBoardAux_step P2 4 (⟨N0, N2, N2, N2, N1, N0, N1, N0, N1⟩ : Grid) P2 [M00, M12, M21] rfl rfl
    (collectScores_cons t222210101 (collectScores_cons v022212101 (collectScores_cons v022210121 collectScores_nil))) rfl

theorem v022210100 : readBoardAux P2 6 (⟨N0, N2, N2, N2, N1, N0, N1, N0, N0⟩ : Grid) P1 = some (Z0, some M00) :=
  readBoardAux_step P2 5 (⟨N0, N2, N2, N2, N1, N0, N1, N0, N0⟩ : Grid) P1 [M00, M12, M21, M22] rfl rfl
    (collectScores_cons v122210100 (collectScores_cons v022211100 (collectScores_cons v022210110 (collectScores_cons v022210101 collectScores_nil)))) rfl

theorem t022012112 : readBoardAux P2 4 (⟨N0, N2, N2, N0, N1, N2, N1, N1, N2⟩ : Grid) P1 = some (ZP, none) :=
  rfl

theorem v022012110 : readBoardAux P2 5 (⟨N0, N2, N2, N0, N1, N2, N1, N1, N0⟩ : Grid) P2 = some (ZP, some M00) :=
  readBoardAux_step P2 4 (⟨N0, N2, N2, N0, N1, N2, N1, N1, N0⟩ : Grid) P2 [M00, M10, M22] rfl rfl
    (collectScores_cons t222012110 (collectScores_cons v022212110 (collectScores_cons t022012112 collectScores_nil))) rfl

theorem v022012121 : readBoardAux P2 4 (⟨N0, N2, N2, N0, N1, N2, N1, N2, N1⟩ : Grid) P1 = some (ZM, some M00) :=
  readBoardAux_step P2 3 (⟨N0, N2, N2, N0, N1, N2, N1, N2, N1⟩ : Grid) P1 [M00, M10] rfl rfl
    (collectScores_cons t122012121 (collectScores_cons v022112121 collectScores_nil)) rfl

theorem v022012101 : readBoardAux P2 5 (⟨N0, N2, N2, N0, N1, N2, N1, N0, N1⟩ : Grid) P2 = some (ZP, some M00) :=
  readBoardAux_step P2 4 (⟨N0, N2, N2, N0, N1, N2, N1, N0, N1⟩ : Grid) P2 [M00, M10, M21] rfl rfl
    (collectScores_cons t222012101 (collectScores_cons v022212101 (collectScores_cons v022012121 collectScores_nil))) rfl

theorem v022012100 : readBoardAux P2 6 (⟨N0, N2, N2, N0, N1, N2, N1, N0, N0⟩ : Grid) P1 = some (ZP, some M00) :=
  readBoardAux_step P2 5 (⟨N0, N2, N2, N0, N1, N2, N1, N0, N0⟩ : Grid) P1 [M00, M10, M21, M22] rfl rfl
    (collectScores_cons v122012100 (collectScores_cons v022112100 (collectScores_cons v022012110 (collectScores_cons v022012101 collectScores_nil)))) rfl

theorem v022010121 : readBoardAux P2 5 (⟨N0, N2, N2, N0, N1, N0, N1, N2, N1⟩ : Grid) P2 = some (ZP, some M00) :=
  readBoardAux_step P2 4 (⟨N0, N2, N2, N0, N1, N0, N1, N2, N1⟩ : Grid) P2 [M00, M10, M12] rfl rfl
    (collectScores_cons t222010121 (collectScores_cons v022210121 (collectScores_cons v022012121 collectScores_nil))) rfl

theorem v022010120 : readBoardAux P2 6 (⟨N0, N2, N2, N0, N1, N0, N1, N2, N0⟩ : Grid) P1 = some (ZM, some M00) :=
  readBoardAux_step P2 5 (⟨N0, N2, N2, N0, N1, N0, N1, N2, N0⟩ : Grid) P1 [M00, M10, M12, M22] rfl rfl
    (collectScores_cons v122010120 (collectScores_cons v022110120 (collectScores_cons v022011120 (collectScores_cons v022010121 collectScores_nil)))) rfl

theorem v022010112 : readBoardAux P2 5 (⟨N0, N2, N2, N0, N1, N0, N1, N1, N2⟩ : Grid) P2 = some (ZP, some M00) :=
  readBoardAux_step P2 4 (⟨N0, N2, N2, N0, N1, N0, N1, N1, N2⟩ : Grid) P2 [M00, M10, M12] rfl rfl
    (collectScores_cons t222010112 (collectScores_cons v022210112 (collectScores_cons t022012112 collectScores_nil))) rfl

theorem v022010102 : readBoardAux P2 6 (⟨N0, N2, N2, N0, N1, N0, N1, N0, N2⟩ : Grid) P1 = some (ZP, some M00) :=
  readBoardAux_step P2 5 (⟨N0, N2, N2, N0, N1, N0, N1, N0, N2⟩ : Grid) P1 [M00, M10, M12, M21] rfl rfl
    (collectScores_cons v122010102 (collectScores_cons v022110102 (collectScores_cons v022011102 (collectScores_cons v022010112 collectScores_nil)))) rfl

theorem v022010100 : readBoardAux P2 7 (⟨N0, N2, N2, N0, N1, N0, N1, N0, N0⟩ : Grid) P2 = some (ZP, some M00) :=
  readBoardAux_step P2 6 (⟨N0, N2, N2, N0, N1, N0, N1, N0, N0⟩ : Grid) P2 [M00, M10, M12, M21, M22] rfl rfl
    (collectScores_cons t222010100 (collectScores_cons v022210100 (collectScores_cons v022012100 (collectScores_cons v022010120 (collectScores_cons v022010102 collectScores_nil))))) rfl

theorem v022212011 : readBoardAux P2 4 (⟨N0, N2, N2, N2, N1, N2, N0, N1, N1⟩ : Grid) P1 = some (ZM, some M00) :=
  readBoardAux_step P2 3 (⟨N0, N2, N2, N2, N1, N2, N0, N1, N1⟩ : Grid) P1 [M00, M20] rfl rfl
    (collectScores_cons t122212011 (collectScores_cons t022212111 collectScores_nil)) rfl

theorem v022210211 : readBoardAux P2 4 (⟨N0, N2, N2, N2, N1, N0, N2, N1, N1⟩ : Grid) P1 = some (ZM, some M00) :=
  readBoardAux_step P2 3 (⟨N0, N2, N2, N2, N1, N0, N2, N1, N1⟩ : Grid) P1 [M00, M12] rfl rfl
    (collectScores_cons t122210211 (collectScores_cons v022211211 collectScores_nil)) rfl

theorem v022210011 : readBoardAux P2 5 (⟨N0, N2, N2, N2, N1, N0, N0, N1, N1⟩ : Grid) P2 = some (ZP, some M00) :=
  readBoardAux_step P2 4 (⟨N0, N2, N2, N2, N1, N0, N0, N1, N1⟩ : Grid) P2 [M00, M12, M20] rfl rfl
    (collectScores_cons t222210011 (collectScores_cons v022212011 (collectScores_cons v022210211 collectScores_nil))) rfl

theorem v022210010 : readBoardAux P2 6 (⟨N0, N2, N2, N2, N1, N0, N0, N1, N0⟩ : Grid) P1 = some (Z0, some M00) :=
  readBoardAux_step P2 5 (⟨N0, N2, N2, N2, N1, N0, N0, N1, N0⟩ : Grid) P1 [M00, M12, M20, M22] rfl rfl
    (collectScores_cons v122210010 (collectScores_cons v022211010 (collectScores_cons v022210110 (collectScores_cons v022210011 collectScores_nil)))) rfl

theorem v022012211 : readBoardAux P2 4 (⟨N0, N2, N2, N0, N1, N2, N2, N1, N1⟩ : Grid) P1 = some (ZM, some M00) :=
  readBoardAux_step P2 3 (⟨N0, N2, N2, N0, N1, N2, N2, N1, N1⟩ : Grid) P1 [M00, M10] rfl rfl
    (collectScores_cons t122012211 (collectScores_cons v022112211 collectScores_nil)) rfl

theorem v022012011 : readBoardAux P2 5 (⟨N0, N2, N2, N0, N1, N2, N0, N1, N1⟩ : Grid) P2 = some (ZP, some M00) :=
  readBoardAux_step P2 4 (⟨N0, N2, N2, N0, N1, N2, N0, N1, N1⟩ : Grid) P2 [M00, M10, M20] rfl rfl
    (collectScores_cons t222012011 (collectScores_cons v022212011 (collectScores_cons v022012211 collectScores_nil))) rfl

theorem v022012010 : readBoardAux P2 6 (⟨N0, N2, N2, N0, N1, N2, N0, N1, N0⟩ : Grid) P1 = some (ZP, some M00) :=
  readBoardAux_step P2 5 (⟨N0, N2, N2, N0, N1, N2, N0, N1, N0⟩ : Grid) P1 [M00, M10, M20, M22] rfl rfl
    (collectScores_cons v122012010 (collectScores_cons v022112010 (collectScores_cons v022012110 (collectScores_cons v022012011 collectScores_nil)))) rfl

theorem v022010211 : readBoardAux P2 5 (⟨N0, N2, N2, N0, N1, N0, N2, N1, N1⟩ : Grid) P2 = some (ZP, some M00) :=
  readBoardAux_step P2 4 (⟨N0, N2, N2, N0, N1, N0, N2, N1, N1⟩ : Grid) P2 [M00, M10, M12] rfl rfl
    (collectScores_cons t222010211 (collectScores_cons v022210211 (collectScores_cons v022012211 collectScores_nil))) rfl

theorem v022010210 : readBoardAux P2 6 (⟨N0, N2, N2, N0, N1, N0, N2, N1, N0⟩ : Grid) P1 = some (Z0, some M00) :=
  readBoardAux_step P2 5 (⟨N0, N2, N2, N0, N1, N0, N2, N1, N0⟩ : Grid) P1 [M00, M10, M12, M22] rfl rfl
    (collectScores_cons v122010210 (collectScores_cons v022110210 (collectScores_cons v022011210 (collectScores_cons v022010211 collectScores_nil)))) rfl

theorem v022010012 : readBoardAux P2 6 (⟨N0, N2, N2, N0, N1, N0, N0, N1, N2⟩ : Grid) P1 = some (ZP, some M00) :=
  readBoardAux_step P2 5 (⟨N0, N2, N2, N0, N1, N0, N0, N1, N2⟩ : Grid) P1 [M00, M10, M12, M20] rfl rfl
    (collectScores_cons v122010012 (collectScores_cons v022110012 (collectScores_cons v022011012 (collectScores_cons v022010112 collectScores_nil)))) rfl

theorem v022010010 : readBoardAux P2 7 (⟨N0, N2, N2, N0, N1, N0, N0, N1, N0⟩ : Grid) P2 = some (ZP, some M00) :=
  readBoardAux_step P2 6 (⟨N0, N2, N2, N0, N1, N0, N0, N1, N0⟩ : Grid) P2 [M00, M10, M12, M20, M22] rfl rfl
    (collectScores_cons t222010010 (collectScores_cons v022210010 (collectScores_cons v022012010 (collectScores_cons v022010210 (collectScores_cons v022010012 collectScores_nil))))) rfl

theorem v022210001 : readBoardAux P2 6 (⟨N0, N2, N2, N2, N1, N0, N0, N0, N1⟩ : Grid) P1 = some (ZM, some M00) :=
  readBoardAux_step P2 5 (⟨N0, N2, N2, N2, N1, N0, N0, N0, N1⟩ : Grid) P1 [M00, M12, M20, M21] rfl rfl
    (collectScores_cons t122210001 (collectScores_cons v022211001 (collectScores_cons v022210101 (collectScores_cons v022210011 collectScores_nil)))) rfl

theorem v022012001 : readBoardAux P2 6 (⟨N0, N2, N2, N0, N1, N2, N0, N0, N1⟩ : Grid) P1 = some (ZM, some M00) :=
  readBoardAux_step P2 5 (⟨N0, N2, N2, N0, N1, N2, N0, N0, N1⟩ : Grid) P1 [M00, M10, M20, M21] rfl rfl
    (collectScores_cons t122012001 (collectScores_cons v022112001 (collectScores_cons v022012101 (collectScores_cons v022012011 collectScores_nil)))) rfl

theorem v022010201 : readBoardAux P2 6 (⟨N0, N2, N2, N0, N1, N0, N2, N0, N1⟩ : Grid) P1 = some (ZM, some M00) :=
  readBoardAux_step P2 5 (⟨N0, N2, N2, N0, N1, N0, N2, N0, N1⟩ : Grid) P1 [M00, M10, M12, M21] rfl rfl
    (collectScores_cons t122010201 (collectScores_cons v022110201 (collectScores_cons v022011201 (collectScores_cons v022010211 collectScores_nil)))) rfl

theorem v022010021 : readBoardAux P2 6 (⟨N0, N2, N2, N0, N1, N0, N0, N2, N1⟩ : Grid) P1 = some (ZM, some M00) :=
  readBoardAux_step P2 5 (⟨N0, N2, N2, N0, N1, N0, N0, N2, N1⟩ : Grid) P1 [M00, M10, M12, M20] rfl rfl
    (collectScores_cons t122010021 (collectScores_cons v022110021 (collectScores_cons v022011021 (collectScores_cons v022010121 collectScores_nil)))) rfl

theorem v022010001 : readBoardAux P2 7 (⟨N0, N2, N2, N0, N1, N0, N0, N0, N1⟩ : Grid) P2 = some (ZP, some M00) :=
  readBoardAux_step P2 6 (⟨N0, N2, N2, N0, N1, N0, N0, N0, N1⟩ : Grid) P2 [M00, M10, M12, M20, M21] rfl rfl
    (collectScores_cons t222010001 (collectScores_cons v022210001 (collectScores_cons v022012001 (collectScores_cons v022010201 (collectScores_cons v022010021 collectScores_nil))))) rfl

theorem v022010000 : readBoardAux P2 8 (⟨N0, N2, N2, N0, N1, N0, N0, N0, N0⟩ : Grid) P1 = some (Z0, some M00) :=
  readBoardAux_step P2 7 (⟨N0, N2, N2, N0, N1, N0, N0, N0, N0⟩ : Grid) P1 [M00, M10, M12, M20, M21, M22] rfl rfl
    (collectScores_cons v122010000 (collectScores_cons v022110000 (collectScores_cons v022011000 (collectScores_cons v022010100 (collectScores_cons v022010010 (collectScores_cons v022010001 collectScores_nil)))))) rfl

theorem v020211212 : readBoardAux P2 4 (⟨N0, N2, N0, N2, N1, N1, N2, N1, N2⟩ : Grid) P1 = some (Z0, some M00) :=
  readBoardAux_step P2 3 (⟨N0, N2, N0, N2, N1, N1, N2, N1, N2⟩ : Grid) P1 [M00, M02] rfl rfl
    (collectScores_cons v120211212 (collectScores_cons v021211212 collectScores_nil)) rfl

theorem v020211210 : readBoardAux P2 5 (⟨N0, N2, N0, N2, N1, N1, N2, N1, N0⟩ : Grid) P2 = some (ZP, some M00) :=
  readBoardAux_step P2 4 (⟨N0, N2, N0, N2, N1, N1, N2, N1, N0⟩ : Grid) P2 [M00, M02, M22] rfl rfl
    (collectScores_cons t220211210 (collectScores_cons v022211210 (collectScores_cons v020211212 collectScores_nil))) rfl

theorem v020211221 : readBoardAux P2 4 (⟨N0, N2, N0, N2, N1, N1, N2, N2, N1⟩ : Grid) P1 = some (ZM, some M00) :=
  readBoardAux_step P2 3 (⟨N0, N2, N0, N2, N1, N1, N2, N2, N1⟩ : Grid) P1 [M00, M02] rfl rfl
    (collectScores_cons t120211221 (collectScores_cons t021211221 collectScores_nil)) rfl

theorem v020211201 : readBoardAux P2 5 (⟨N0, N2, N0, N2, N1, N1, N2, N0, N1⟩ : Grid) P2 = some (ZP, some M00) :=
  readBoardAux_step P2 4 (⟨N0, N2, N0, N2, N1, N1, N2, N0, N1⟩ : Grid) P2 [M00, M02, M21] rfl rfl
    (collectScores_cons t220211201 (collectScores_cons v022211201 (collectScores_cons v020211221 collectScores_nil))) rfl

theorem v020211200 : readBoardAux P2 6 (⟨N0, N2, N0, N2, N1, N1, N2, N0, N0⟩ : Grid) P1 = some (Z0, some M00) :=
  readBoardAux_step P2 5 (⟨N0, N2, N0, N2, N1, N1, N2, N0, N0⟩ : Grid) P1 [M00, M02, M21, M22] rfl rfl
    (collectScores_cons v120211200 (collectScores_cons v021211200 (collectScores_cons v020211210 (collectScores_cons v020211201 collectScores_nil)))) rfl

theorem v020211122 : readBoardAux P2 4 (⟨N0, N2, N0, N2, N1, N1, N1, N2, N2⟩ : Grid) P1 = some (ZM, some M02) :=
  readBoardAux_step P2 3 (⟨N0, N2, N0, N2, N1, N1, N1, N2, N2⟩ : Grid) P1 [M00, M02] rfl rfl
    (collectScores_cons v120211122 (collectScores_cons t021211122 collectScores_nil)) rfl

theorem v020211120 : readBoardAux P2 5 (⟨N0, N2, N0, N2, N1, N1, N1, N2, N0⟩ : Grid) P2 = some (Z0, some M02) :=
  readBoardAux_step P2 4 (⟨N0, N2, N0, N2, N1, N1, N1, N2, N0⟩ : Grid) P2 [M00, M02, M22] rfl rfl
    (collectScores_cons v220211120 (collectScores_cons v022211120 (collectScores_cons v020211122 collectScores_nil))) rfl

theorem v020211021 : readBoardAux P2 5 (⟨N0, N2, N0, N2, N1, N1, N0, N2, N1⟩ : Grid) P2 = some (ZM, some M00) :=
  readBoardAux_step P2 4 (⟨N0, N2, N0, N2, N1, N1, N0, N2, N1⟩ : Grid) P2 [M00, M02, M20] rfl rfl
    (collectScores_cons v220211021 (collectScores_cons v022211021 (collectScores_cons v020211221 collectScores_nil))) rfl

theorem v020211020 : readBoardAux P2 6 (⟨N0, N2, N0, N2, N1, N1, N0, N2, N0⟩ : Grid) P1 = some (ZM, some M02) :=
  readBoardAux_step P2 5 (⟨N0, N2, N0, N2, N1, N1, N0, N2, N0⟩ : Grid) P1 [M00, M02, M20, M22] rfl rfl
    (collectScores_cons v120211020 (collectScores_cons v021211020 (collectScores_cons v020211120 (collectScores_cons v020211021 collectScores_nil)))) rfl

theorem v020211102 : readBoardAux P2 5 (⟨N0, N2, N0, N2, N1, N1, N1, N0, N2⟩ : Grid) P2 = some (Z0, some M02) :=
  readBoardAux_step P2 4 (⟨N0, N2, N0, N2, N1, N1, N1, N0, N2⟩ : Grid) P2 [M00, M02, M21] rfl rfl
    (collectScores_cons v220211102 (collectScores_cons v022211102 (collectScores_cons v020211122 collectScores_nil))) rfl

theorem v020211012 : readBoardAux P2 5 (⟨N0, N2, N0, N2, N1, N1, N0, N1, N2⟩ : Grid) P2 = some (ZP, some M00) :=
  readBoardAux_step P2 4 (⟨N0, N2, N0, N2, N1, N1, N0, N1, N2⟩ : Grid) P2 [M00, M02, M20] rfl rfl
    (collectScores_cons v220211012 (collectScores_cons v022211012 (collectScores_cons v020211212 collectScores_nil))) rfl

theorem v020211002 : readBoardAux P2 6 (⟨N0, N2, N0, N2, N1, N1, N0, N0, N2⟩ : Grid) P1 = some (Z0, some M00) :=
  readBoardAux_step P2 5 (⟨N0, N2, N0, N2, N1, N1, N0, N0, N2⟩ : Grid) P1 [M00, M02, M20, M21] rfl rfl
    (collectScores_cons v120211002 (collectScores_cons v021211002 (collectScores_cons v020211102 (collectScores_cons v020211012 collectScores_nil)))) rfl

theorem v020211000 : readBoardAux P2 7 (⟨N0, N2, N0, N2, N1, N1, N0, N0, N0⟩ : Grid) P2 = some (ZP, some M00) :=
  readBoardAux_step P2 6 (⟨N0, N2, N0, N2, N1, N1, N0, N0, N0⟩ : Grid) P2 [M00, M02, M20, M21, M22] rfl rfl
    (collectScores_cons v220211000 (collectScores_cons v022211000 (collectScores_cons v020211200 (collectScores_cons v020211020 (collectScores_cons v020211002 collectScores_nil))))) rfl

theorem v020212112 : readBoardAux P2 4 (⟨N0, N2, N0, N2, N1, N2, N1, N1, N2⟩ : Grid) P1 = some (ZM, some M02) :=
  readBoardAux_step P2 3 (⟨N0, N2, N0, N2, N1, N2, N1, N1, N2⟩ : Grid) P1 [M00, M02] rfl rfl
    (collectScores_cons v120212112 (collectScores_cons t021212112 collectScores_nil)) rfl

theorem v020212110 : readBoardAux P2 5 (⟨N0, N2, N0, N2, N1, N2, N1, N1, N0⟩ : Grid) P2 = some (ZM, some M00) :=
  readBoardAux_step P2 4 (⟨N0, N2, N0, N2, N1, N2, N1, N1, N0⟩ : Grid) P2 [M00, M02, M22] rfl rfl
    (collectScores_cons v220212110 (collectScores_cons v022212110 (collectScores_cons v020212112 collectScores_nil))) rfl

theorem v020212121 : readBoardAux P2 4 (⟨N0, N2, N0, N2, N1, N2, N1, N2, N1⟩ : Grid) P1 = some (ZM, some M00) :=
  readBoardAux_step P2 3 (⟨N0, N2, N0, N2, N1, N2, N1, N2, N1⟩ : Grid) P1 [M00, M02] rfl rfl
    (collectScores_cons t120212121 (collectScores_cons t021212121 collectScores_nil)) rfl

theorem v020212101 : readBoardAux P2 5 (⟨N0, N2, N0, N2, N1, N2, N1, N0, N1⟩ : Grid) P2 = some (ZM, some M00) :=
  readBoardAux_step P2 4 (⟨N0, N2, N0, N2, N1, N2, N1, N0, N1⟩ : Grid) P2 [M00, M02, M21] rfl rfl
    (collectScores_cons v220212101 (collectScores_cons v022212101 (collectScores_cons v020212121 collectScores_nil))) rfl

theorem v020212100 : readBoardAux P2 6 (⟨N0, N2, N0, N2, N1, N2, N1, N0, N0⟩ : Grid) P1 = some (ZM, some M00) :=
  readBoardAux_step P2 5 (⟨N0, N2, N0, N2, N1, N2, N1, N0, N0⟩ : Grid) P1 [M00, M02, M21, M22] rfl rfl
    (collectScores_cons v120212100 (collectScores_cons t021212100 (collectScores_cons v020212110 (collectScores_cons v020212101 collectScores_nil)))) rfl

theorem v020210121 : readBoardAux P2 5 (⟨N0, N2, N0, N2, N1, N0, N1, N2, N1⟩ : Grid) P2 = some (ZM, some M00) :=
  readBoardAux_step P2 4 (⟨N0, N2, N0, N2, N1, N0, N1, N2, N1⟩ : Grid) P2 [M00, M02, M12] rfl rfl
    (collectScores_cons v220210121 (collectScores_cons v022210121 (collectScores_cons v020212121 collectScores_nil))) rfl

theorem v020210120 : readBoardAux P2 6 (⟨N0, N2, N0, N2, N1, N0, N1, N2, N0⟩ : Grid) P1 = some (ZM, some M00) :=
  readBoardAux_step P2 5 (⟨N0, N2, N0, N2, N1, N0, N1, N2, N0⟩ : Grid) P1 [M00, M02, M12, M22] rfl rfl
    (collectScores_cons v120210120 (collectScores_cons t021210120 (collectScores_cons v020211120 (collectScores_cons v020210121 collectScores_nil)))) rfl

theorem v020210112 : readBoardAux P2 5 (⟨N0, N2, N0, N2, N1, N0, N1, N1, N2⟩ : Grid) P2 = some (ZP, some M02) :=
  readBoardAux_step P2 4 (⟨N0, N2, N0, N2, N1, N0, N1, N1, N2⟩ : Grid) P2 [M00, M02, M12] rfl rfl
    (collectScores_cons v220210112 (collectScores_cons v022210112 (collectScores_cons v020212112 collectScores_nil))) rfl

theorem v020210102 : readBoardAux P2 6 (⟨N0, N2, N0, N2, N1, N0, N1, N0, N2⟩ : Grid) P1 = some (ZM, some M02) :=
  readBoardAux_step P2 5 (⟨N0, N2, N0, N2, N1, N0, N1, N0, N2⟩ : Grid) P1 [M00, M02, M12, M21] rfl rfl
    (collectScores_cons v120210102 (collectScores_cons t021210102 (collectScores_cons v020211102 (collectScores_cons v020210112 collectScores_nil)))) rfl

theorem v020210100 : readBoardAux P2 7 (⟨N0, N2, N0, N2, N1, N0, N1, N0, N0⟩ : Grid) P2 = some (Z0, some M02) :=
  readBoardAux_step P2 6 (⟨N0, N2, N0, N2, N1, N0, N1, N0, N0⟩ : Grid) P2 [M00, M02, M12, M21, M22] rfl rfl
    (collectScores_cons v220210100 (collectScores_cons v022210100 (collectScores_cons v020212100 (collectScores_cons v020210120 (collectScores_cons v020210102 collectScores_nil))))) rfl

theorem v020212211 : readBoardAux P2 4 (⟨N0, N2, N0, N2, N1, N2, N2, N1, N1⟩ : Grid) P1 = some (ZM, some M00) :=
  readBoardAux_step P2 3 (⟨N0, N2, N0, N2, N1, N2, N2, N1, N1⟩ : Grid) P1 [M00, M02] rfl rfl
    (collectScores_cons t120212211 (collectScores_cons v021212211 collectScores_nil)) rfl

theorem v020212011 : readBoardAux P2 5 (⟨N0, N2, N0, N2, N1, N2, N0, N1, N1⟩ : Grid) P2 = some (ZM, some M00) :=
  readBoardAux_step P2 4 (⟨N0, N2, N0, N2, N1, N2, N0, N1, N1⟩ : Grid) P2 [M00, M02, M20] rfl rfl
    (collectScores_cons v220212011 (collectScores_cons v022212011 (collectScores_cons v020212211 collectScores_nil))) rfl

theorem v020212010 : readBoardAux P2 6 (⟨N0, N2, N0, N2, N1, N2, N0, N1, N0⟩ : Grid) P1 = some (ZM, some M20) :=
  readBoardAux_step P2 5 (⟨N0, N2, N0, N2, N1, N2, N0, N1, N0⟩ : Grid) P1 [M00, M02, M20, M22] rfl rfl
    (collectScores_cons v120212010 (collectScores_cons v021212010 (collectScores_cons v020212110 (collectScores_cons v020212011 collectScores_nil)))) rfl

theorem v020210211 : readBoardAux P2 5 (⟨N0, N2, N0, N2, N1, N0, N2, N1, N1⟩ : Grid) P2 = some (ZP, some M00) :=
  readBoardAux_step P2 4 (⟨N0, N2, N0, N2, N1, N0, N2, N1, N1⟩ : Grid) P2 [M00, M02, M12] rfl rfl
    (collectScores_cons t220210211 (collectScores_cons v022210211 (collectScores_cons v020212211 collectScores_nil))) rfl

theorem v020210210 : readBoardAux P2 6 (⟨N0, N2, N0, N2, N1, N0, N2, N1, N0⟩ : Grid) P1 = some (Z0, some M00) :=
  readBoardAux_step P2 5 (⟨N0, N2, N0, N2, N1, N0, N2, N1, N0⟩ : Grid) P1 [M00, M02, M12, M22] rfl rfl
    (collectScores_cons v120210210 (collectScores_cons v021210210 (collectScores_cons v020211210 (collectScores_cons v020210211 collectScores_nil)))) rfl

theorem v020210012 : readBoardAux P2 6 (⟨N0, N2, N0, N2, N1, N0, N0, N1, N2⟩ : Grid) P1 = some (Z0, some M00) :=
  readBoardAux_step P2 5 (⟨N0, N2, N0, N2, N1, N0, N0, N1, N2⟩ : Grid) P1 [M00, M02, M12, M20] rfl rfl
    (collectScores_cons v120210012 (collectScores_cons v021210012 (collectScores_cons v020211012 (collectScores_cons v020210112 collectScores_nil)))) rfl

theorem v020210010 : readBoardAux P2 7 (⟨N0, N2, N0, N2, N1, N0, N0, N1, N0⟩ : Grid) P2 = some (ZP, some M00) :=
  readBoardAux_step P2 6 (⟨N0, N2, N0, N2, N1, N0, N0, N1, N0⟩ : Grid) P2 [M00, M02, M12, M20, M22] rfl rfl
    (collectScores_cons v220210010 (collectScores_cons v022210010 (collectScores_cons v020212010 (collectScores_cons v020210210 (collectScores_cons v020210012 collectScores_nil))))) rfl

theorem v020212001 : readBoardAux P2 6 (⟨N0, N2, N0, N2, N1, N2, N0, N0, N1⟩ : Grid) P1 = some (ZM, some M00) :=
  readBoardAux_step P2 5 (⟨N0, N2, N0, N2, N1, N2, N0, N0, N1⟩ : Grid) P1 [M00, M02, M20, M21] rfl rfl
    (collectScores_cons t120212001 (collectScores_cons v021212001 (collectScores_cons v020212101 (collectScores_cons v020212011 collectScores_nil)))) rfl

theorem v020210201 : readBoardAux P2 6 (⟨N0, N2, N0, N2, N1, N0, N2, N0, N1⟩ : Grid) P1 = some (ZM, some M00) :=
  readBoardAux_step P2 5 (⟨N0, N2, N0, N2, N1, N0, N2, N0, N1⟩ : Grid) P1 [M00, M02, M12, M21] rfl rfl
    (collectScores_cons t120210201 (collectScores_cons v021210201 (collectScores_cons v020211201 (collectScores_cons v020210211 collectScores_nil)))) rfl

theorem v020210021 : readBoardAux P2 6 (⟨N0, N2, N0, N2, N1, N0, N0, N2, N1⟩ : Grid) P1 = some (ZM, some M00) :=
  readBoardAux_step P2 5 (⟨N0, N2, N0, N2, N1, N0, N0, N2, N1⟩ : Grid) P1 [M00, M02, M12, M20] rfl rfl
    (collectScores_cons t120210021 (collectScores_cons v021210021 (collectScores_cons v020211021 (collectScores_cons v020210121 collectScores_nil)))) rfl

theorem v020210001 : readBoardAux P2 7 (⟨N0, N2, N0, N2, N1, N0, N0, N0, N1⟩ : Grid) P2 = some (ZP, some M00) :=
  readBoardAux_step P2 6 (⟨N0, N2, N0, N2, N1, N0, N0, N0, N1⟩ : Grid) P2 [M00, M02, M12, M20, M21] rfl rfl
    (collectScores_cons v220210001 (collectScores_cons v022210001 (collectScores_cons v020212001 (collectScores_cons v020210201 (collectScores_cons v020210021 collectScores_nil))))) rfl

theorem v020210000 : readBoardAux P2 8 (⟨N0, N2, N0, N2, N1, N0, N0, N0, N0⟩ : Grid) P1 = some (Z0, some M00) :=
  readBoardAux_step P2 7 (⟨N0, N2, N0, N2, N1, N0, N0, N0, N0⟩ : Grid) P1 [M00, M02, M12, M20, M21, M22] rfl rfl
    (collectScores_cons v120210000 (collectScores_cons v021210000 (collectScores_cons v020211000 (collectScores_cons v020210100 (collectScores_cons v020210010 (collectScores_cons v020210001 collectScores_nil)))))) rfl

theorem v020012121 : readBoardAux P2 5 (⟨N0, N2, N0, N0, N1, N2, N1, N2, N1⟩ : Grid) P2 = some (ZM, some M00) :=
  readBoardAux_step P2 4 (⟨N0, N2, N0, N0, N1, N2, N1, N2, N1⟩ : Grid) P2 [M00, M02, M10] rfl rfl
    (collectScores_cons v220012121 (collectScores_cons v022012121 (collectScores_cons v020212121 collectScores_nil))) rfl

theorem v020012120 : readBoardAux P2 6 (⟨N0, N2, N0, N0, N1, N2, N1, N2, N0⟩ : Grid) P1 = some (ZM, some M00) :=
  readBoardAux_step P2 5 (⟨N0, N2, N0, N0, N1, N2, N1, N2, N0⟩ : Grid) P1 [M00, M02, M10, M22] rfl rfl
    (collectScores_cons v120012120 (collectScores_cons t021012120 (collectScores_cons v020112120 (collectScores_cons v020012121 collectScores_nil)))) rfl

theorem v020012112 : readBoardAux P2 5 (⟨N0, N2, N0, N0, N1, N2, N1, N1, N2⟩ : Grid) P2 = some (ZP, some M02) :=
  readBoardAux_step P2 4 (⟨N0, N2, N0, N0, N1, N2, N1, N1, N2⟩ : Grid) P2 [M00, M02, M10] rfl rfl
    (collectScores_cons v220012112 (collectScores_cons t022012112 (collectScores_cons v020212112 collectScores_nil))) rfl

theorem v020012102 : readBoardAux P2 6 (⟨N0, N2, N0, N0, N1, N2, N1, N0, N2⟩ : Grid) P1 = some (ZM, some M02) :=
  readBoardAux_step P2 5 (⟨N0, N2, N0, N0, N1, N2, N1, N0, N2⟩ : Grid) P1 [M00, M02, M10, M21] rfl rfl
    (collectScores_cons v120012102 (collectScores_cons t021012102 (collectScores_cons v020112102 (collectScores_cons v020012112 collectScores_nil)))) rfl

theorem v020012100 : readBoardAux P2 7 (⟨N0, N2, N0, N0, N1, N2, N1, N0, N0⟩ : Grid) P2 = some (ZP, some M02) :=
  readBoardAux_step P2 6 (⟨N0, N2, N0, N0, N1, N2, N1, N0, N0⟩ : Grid) P2 [M00, M02, M10, M21, M22] rfl rfl
    (collectScores_cons v220012100 (collectScores_cons v022012100 (collectScores_cons v020212100 (collectScores_cons v020012120 (collectScores_cons v020012102 collectScores_nil))))) rfl

theorem v020012211 : readBoardAux P2 5 (⟨N0, N2, N0, N0, N1, N2, N2, N1, N1⟩ : Grid) P2 = some (ZP, some M00) :=
  readBoardAux_step P2 4 (⟨N0, N2, N0, N0, N1, N2, N2, N1, N1⟩ : Grid) P2 [M00, M02, M10] rfl rfl
    (collectScores_cons v220012211 (collectScores_cons v022012211 (collectScores_cons v020212211 collectScores_nil))) rfl

theorem v020012210 : readBoardAux P2 6 (⟨N0, N2, N0, N0, N1, N2, N2, N1, N0⟩ : Grid) P1 = some (Z0, some M00) :=
  readBoardAux_step P2 5 (⟨N0, N2, N0, N0, N1, N2, N2, N1, N0⟩ : Grid) P1 [M00, M02, M10, M22] rfl rfl
    (collectScores_cons v120012210 (collectScores_cons v021012210 (collectScores_cons v020112210 (collectScores_cons v020012211 collectScores_nil)))) rfl

theorem v020012012 : readBoardAux P2 6 (⟨N0, N2, N0, N0, N1, N2, N0, N1, N2⟩ : Grid) P1 = some (Z0, some M02) :=
  readBoardAux_step P2 5 (⟨N0, N2, N0, N0, N1, N2, N0, N1, N2⟩ : Grid) P1 [M00, M02, M10, M20] rfl rfl
    (collectScores_cons v120012012 (collectScores_cons v021012012 (collectScores_cons v020112012 (collectScores_cons v020012112 collectScores_nil)))) rfl

theorem v020012010 : readBoardAux P2 7 (⟨N0, N2, N0, N0, N1, N2, N0, N1, N0⟩ : Grid) P2 = some (ZP, some M02) :=
  readBoardAux_step P2 6 (⟨N0, N2, N0, N0, N1, N2, N0, N1, N0⟩ : Grid) P2 [M00, M02, M10, M20, M22] rfl rfl
    (collectScores_cons v220012010 (collectScores_cons v022012010 (collectScores_cons v020212010 (collectScores_cons v020012210 (collectScores_cons v020012012 collectScores_nil))))) rfl

theorem v020012201 : readBoardAux P2 6 (⟨N0, N2, N0, N0, N1, N2, N2, N0, N1⟩ : Grid) P1 = some (ZM, some M00) :=
  readBoardAux_step P2 5 (⟨N0, N2, N0, N0, N1, N2, N2, N0, N1⟩ : Grid) P1 [M00, M02, M10, M21] rfl rfl
    (collectScores_cons t120012201 (collectScores_cons v021012201 (collectScores_cons v020112201 (collectScores_cons v020012211 collectScores_nil)))) rfl

theorem v020012021 : readBoardAux P2 6 (⟨N0, N2, N0, N0, N1, N2, N0, N2, N1⟩ : Grid) P1 = some (ZM, some M00) :=
  readBoardAux_step P2 5 (⟨N0, N2, N0, N0, N1, N2, N0, N2, N1⟩ : Grid) P1 [M00, M02, M10, M20] rfl rfl
    (collectScores_cons t120012021 (collectScores_cons v021012021 (collectScores_cons v020112021 (collectScores_cons v020012121 collectScores_nil)))) rfl

theorem v020012001 : readBoardAux P2 7 (⟨N0, N2, N0, N0, N1, N2, N0, N0, N1⟩ : Grid) P2 = some (Z0, some M00) :=
  readBoardAux_step P2 6 (⟨N0, N2, N0, N0, N1, N2, N0, N0, N1⟩ : Grid) P2 [M00, M02, M10, M20, M21] rfl rfl
    (collectScores_cons v220012001 (collectScores_cons v022012001 (collectScores_cons v020212001 (collectScores_cons v020012201 (collectScores_cons v020012021 collectScores_nil))))) rfl

theorem v020012000 : readBoardAux P2 8 (⟨N0, N2, N0, N0, N1, N2, N0, N0, N0⟩ : Grid) P1 = some (Z0, some M00) :=
  readBoardAux_step P2 7 (⟨N0, N2, N0, N0, N1, N2, N0, N0, N0⟩ : Grid) P1 [M00, M02, M10, M20, M21, M22] rfl rfl
    (collectScores_cons v120012000 (collectScores_cons v021012000 (collectScores_cons v020112000 (collectScores_cons v020012100 (collectScores_cons v020012010 (collectScores_cons v020012001 collectScores_nil)))))) rfl

theorem v020011221 : readBoardAux P2 5 (⟨N0, N2, N0, N0, N1, N1, N2, N2, N1⟩ : Grid) P2 = some (ZM, some M00) :=
  readBoardAux_step P2 4 (⟨N0, N2, N0, N0, N1, N1, N2, N2, N1⟩ : Grid) P2 [M00, M02, M10] rfl rfl
    (collectScores_cons v220011221 (collectScores_cons v022011221 (collectScores_cons v020211221 collectScores_nil))) rfl

theorem v020011220 : readBoardAux P2 6 (⟨N0, N2, N0, N0, N1, N1, N2, N2, N0⟩ : Grid) P1 = some (ZM, some M10) :=
  readBoardAux_step P2 5 (⟨N0, N2, N0, N0, N1, N1, N2, N2, N0⟩ : Grid) P1 [M00, M02, M10, M22] rfl rfl
    (collectScores_cons v120011220 (collectScores_cons v021011220 (collectScores_cons t020111220 (collectScores_cons v020011221 collectScores_nil)))) rfl

theorem v020011212 : readBoardAux P2 5 (⟨N0, N2, N0, N0, N1, N1, N2, N1, N2⟩ : Grid) P2 = some (Z0, some M10) :=
  readBoardAux_step P2 4 (⟨N0, N2, N0, N0, N1, N1, N2, N1, N2⟩ : Grid) P2 [M00, M02, M10] rfl rfl
    (collectScores_cons v220011212 (collectScores_cons v022011212 (collectScores_cons v020211212 collectScores_nil))) rfl

theorem v020011202 : readBoardAux P2 6 (⟨N0, N2, N0, N0, N1, N1, N2, N0, N2⟩ : Grid) P1 = some (ZM, some M10) :=
  readBoardAux_step P2 5 (⟨N0, N2, N0, N0, N1, N1, N2, N0, N2⟩ : Grid) P1 [M00, M02, M10, M21] rfl rfl
    (collectScores_cons v120011202 (collectScores_cons v021011202 (collectScores_cons t020111202 (collectScores_cons v020011212 collectScores_nil)))) rfl

theorem v020011200 : readBoardAux P2 7 (⟨N0, N2, N0, N0, N1, N1, N2, N0, N0⟩ : Grid) P2 = some (Z0, some M10) :=
  readBoardAux_step P2 6 (⟨N0, N2, N0, N0, N1, N1, N2, N0, N0⟩ : Grid) P2 [M00, M02, M10, M21, M22] rfl rfl
    (collectScores_cons v220011200 (collectScores_cons v022011200 (collectScores_cons v020211200 (collectScores_cons v020011220 (collectScores_cons v020011202 collectScores_nil))))) rfl

theorem v020010212 : readBoardAux P2 6 (⟨N0, N2, N0, N0, N1, N0, N2, N1, N2⟩ : Grid) P1 = some (Z0, some M00) :=
  readBoardAux_step P2 5 (⟨N0, N2, N0, N0, N1, N0, N2, N1, N2⟩ : Grid) P1 [M00, M02, M10, M12] rfl rfl
    (collectScores_cons v120010212 (collectScores_cons v021010212 (collectScores_cons v020110212 (collectScores_cons v020011212 collectScores_nil)))) rfl

theorem v020010210 : readBoardAux P2 7 (⟨N0, N2, N0, N0, N1, N0, N2, N1, N0⟩ : Grid) P2 = some (ZP, some M00) :=
  readBoardAux_step P2 6 (⟨N0, N2, N0, N0, N1, N0, N2, N1, N0⟩ : Grid) P2 [M00, M02, M10, M12, M22] rfl rfl
    (collectScores_cons v220010210 (collectScores_cons v022010210 (collectScores_cons v020210210 (collectScores_cons v020012210 (collectScores_cons v020010212 collectScores_nil))))) rfl

theorem v020010221 : readBoardAux P2 6 (⟨N0, N2, N0, N0, N1, N0, N2, N2, N1⟩ : Grid) P1 = some (ZM, some M00) :=
  readBoardAux_step P2 5 (⟨N0, N2, N0, N0, N1, N0, N2, N2, N1⟩ : Grid) P1 [M00, M02, M10, M12] rfl rfl
    (collectScores_cons t120010221 (collectScores_cons v021010221 (collectScores_cons v020110221 (collectScores_cons v020011221 collectScores_nil)))) rfl

theorem v020010201 : readBoardAux P2 7 (⟨N0, N2, N0, N0, N1, N0, N2, N0, N1⟩ : Grid) P2 = some (ZP, some M00) :=
  readBoardAux_step P2 6 (⟨N0, N2, N0, N0, N1, N0, N2, N0, N1⟩ : Grid) P2 [M00, M02, M10, M12, M21] rfl rfl
    (collectScores_cons v220010201 (collectScores_cons v022010201 (collectScores_cons v020210201 (collectScores_cons v020012201 (collectScores_cons v020010221 collectScores_nil))))) rfl

theorem v020010200 : readBoardAux P2 8 (⟨N0, N2, N0, N0, N1, N0, N2, N0, N0⟩ : Grid) P1 = some (Z0, some M00) :=
  readBoardAux_step P2 7 (⟨N0, N2, N0, N0, N1, N0, N2, N0, N0⟩ : Grid) P1 [M00, M02, M10, M12, M21, M22] rfl rfl
    (collectScores_cons v120010200 (collectScores_cons v021010200 (collectScores_cons v020110200 (collectScores_cons v020011200 (collectScores_cons v020010210 (collectScores_cons v020010201 collectScores_nil)))))) rfl

theorem v020011122 : readBoardAux P2 5 (⟨N0, N2, N0, N0, N1, N1, N1, N2, N2⟩ : Grid) P2 = some (ZM, some M00) :=
  readBoardAux_step P2 4 (⟨N0, N2, N0, N0, N1, N1, N1, N2, N2⟩ : Grid) P2 [M00, M02, M10] rfl rfl
    (collectScores_cons v220011122 (collectScores_cons v022011122 (collectScores_cons v020211122 collectScores_nil))) rfl

theorem v020011022 : readBoardAux P2 6 (⟨N0, N2, N0, N0, N1, N1, N0, N2, N2⟩ : Grid) P1 = some (ZM, some M10) :=
  readBoardAux_step P2 5 (⟨N0, N2, N0, N0, N1, N1, N0, N2, N2⟩ : Grid) P1 [M00, M02, M10, M20] rfl rfl
    (collectScores_cons v120011022 (collectScores_cons v021011022 (collectScores_cons t020111022 (collectScores_cons v020011122 collectScores_nil)))) rfl

theorem v020011020 : readBoardAux P2 7 (⟨N0, N2, N0, N0, N1, N1, N0, N2, N0⟩ : Grid) P2 = some (ZM, some M00) :=
  readBoardAux_step P2 6 (⟨N0, N2, N0, N0, N1, N1, N0, N2, N0⟩ : Grid) P2 [M00, M02, M10, M20, M22] rfl rfl
    (collectScores_cons v220011020 (collectScores_cons v022011020 (collectScores_cons v020211020 (collectScores_cons v020011220 (collectScores_cons v020011022 collectScores_nil))))) rfl

theorem v020010122 : readBoardAux P2 6 (⟨N0, N2, N0, N0, N1, N0, N1, N2, N2⟩ : Grid) P1 = some (ZM, some M00) :=
  readBoardAux_step P2 5 (⟨N0, N2, N0, N0, N1, N0, N1, N2, N2⟩ : Grid) P1 [M00, M02, M10, M12] rfl rfl
    (collectScores_cons v120010122 (collectScores_cons t021010122 (collectScores_cons v020110122 (collectScores_cons v020011122 collectScores_nil)))) rfl

theorem v020010120 : readBoardAux P2 7 (⟨N0, N2, N0, N0, N1, N0, N1, N2, N0⟩ : Grid) P2 = some (ZM, some M00) :=
  readBoardAux_step P2 6 (⟨N0, N2, N0, N0, N1, N0, N1, N2, N0⟩ : Grid) P2 [M00, M02, M10, M12, M22] rfl rfl
    (collectScores_cons v220010120 (collectScores_cons v022010120 (collectScores_cons v020210120 (collectScores_cons v020012120 (collectScores_cons v020010122 collectScores_nil))))) rfl

theorem v020010021 : readBoardAux P2 7 (⟨N0, N2, N0, N0, N1, N0, N0, N2, N1⟩ : Grid) P2 = some (ZM, some M00) :=
  readBoardAux_step P2 6 (⟨N0, N2, N0, N0, N1, N0, N0, N2, N1⟩ : Grid) P2 [M00, M02, M10, M12, M20] rfl rfl
    (collectScores_cons v220010021 (collectScores_cons v022010021 (collectScores_cons v020210021 (collectScores_cons v020012021 (collectScores_cons v020010221 collectScores_nil))))) rfl

theorem v020010020 : readBoardAux P2 8 (⟨N0, N2, N0, N0, N1, N0, N0, N2, N0⟩ : Grid) P1 = some (ZM, some M00) :=
  readBoardAux_step P2 7 (⟨N0, N2, N0, N0, N1, N0, N0, N2, N0⟩ : Grid) P1 [M00, M02, M10, M12, M20, M22] rfl rfl
    (collectScores_cons v120010020 (collectScores_cons v021010020 (collectScores_cons v020110020 (collectScores_cons v020011020 (collectScores_cons v020010120 (collectScores_cons v020010021 collectScores_nil)))))) rfl

theorem v020011002 : readBoardAux P2 7 (⟨N0, N2, N0, N0, N1, N1, N0, N0, N2⟩ : Grid) P2 = some (Z0, some M10) :=
  readBoardAux_step P2 6 (⟨N0, N2, N0, N0, N1, N1, N0, N0, N2⟩ : Grid) P2 [M00, M02, M10, M20, M21] rfl rfl
    (collectScores_cons v220011002 (collectScores_cons v022011002 (collectScores_cons v020211002 (collectScores_cons v020011202 (collectScores_cons v020011022 collectScores_nil))))) rfl

theorem v020010102 : readBoardAux P2 7 (⟨N0, N2, N0, N0, N1, N0, N1, N0, N2⟩ : Grid) P2 = some (ZP, some M02) :=
  readBoardAux_step P2 6 (⟨N0, N2, N0, N0, N1, N0, N1, N0, N2⟩ : Grid) P2 [M00, M02, M10, M12, M21] rfl rfl
    (collectScores_cons v220010102 (collectScores_cons v022010102 (collectScores_cons v020210102 (collectScores_cons v020012102 (collectScores_cons v020010122 collectScores_nil))))) rfl

theorem v020010012 : readBoardAux P2 7 (⟨N0, N2, N0, N0, N1, N0, N0, N1, N2⟩ : Grid) P2 = some (ZP, some M02) :=
  readBoardAux_step P2 6 (⟨N0, N2, N0, N0, N1, N0, N0, N1, N2⟩ : Grid) P2 [M00, M02, M10, M12, M20] rfl rfl
    (collectScores_cons v220010012 (collectScores_cons v022010012 (collectScores_cons v020210012 (collectScores_cons v020012012 (collectScores_cons v020010212 collectScores_nil))))) rfl

theorem v020010002 : readBoardAux P2 8 (⟨N0, N2, N0, N0, N1, N0, N0, N0, N2⟩ : Grid) P1 = some (Z0, some M00) :=
  readBoardAux_step P2 7 (⟨N0, N2, N0, N0, N1, N0, N0, N0, N2⟩ : Grid) P1 [M00, M02, M10, M12, M20, M21] rfl rfl
    (collectScores_cons v120010002 (collectScores_cons v021010002 (collectScores_cons v020110002 (collectScores_cons v020011002 (collectScores_cons v020010102 (collectScores_cons v020010012 collectScores_nil)))))) rfl

theorem v020010000 : readBoardAux P2 9 (⟨N0, N2, N0, N0, N1, N0, N0, N0, N0⟩ : Grid) P2 = some (Z0, some M00) :=
  readBoardAux_step P2 8 (⟨N0, N2, N0, N0, N1, N0, N0, N0, N0⟩ : Grid) P2 [M00, M02, M10, M12, M20, M21, M22] rfl rfl
    (collectScores_cons v220010000 (collectScores_cons v022010000 (collectScores_cons v020210000 (collectScores_cons v020012000 (collectScores_cons v020010200 (collectScores_cons v020010020 (collectScores_cons v020010002 collectScores_nil))))))) rfl

theorem t022221111 : readBoardAux P2 3 (⟨N0, N2, N2, N2, N2, N1, N1, N1, N1⟩ : Grid) P2 = some (ZM, none) :=
  rfl

theorem v022221110 : readBoardAux P2 4 (⟨N0, N2, N2, N2, N2, N1, N1, N1, N0⟩ : Grid) P1 = some (ZM, some M22) :=
  readBoardAux_step P2 3 (⟨N0, N2, N2, N2, N2, N1, N1, N1, N0⟩ : Grid) P1 [M00, M22] rfl rfl
    (collectScores_cons v122221110 (collectScores_cons t022221111 collectScores_nil)) rfl

theorem v022201112 : readBoardAux P2 4 (⟨N0, N2, N2, N2, N0, N1, N1, N1, N2⟩ : Grid) P1 = some (Z0, some M00) :=
  readBoardAux_step P2 3 (⟨N0, N2, N2, N2, N0, N1, N1, N1, N2⟩ : Grid) P1 [M00, M11] rfl rfl
    (collectScores_cons v122201112 (collectScores_cons v022211112 collectScores_nil)) rfl

theorem v022201110 : readBoardAux P2 5 (⟨N0, N2, N2, N2, N0, N1, N1, N1, N0⟩ : Grid) P2 = some (ZP, some M00) :=
  readBoardAux_step P2 4 (⟨N0, N2, N2, N2, N0, N1, N1, N1, N0⟩ : Grid) P2 [M00, M11, M22] rfl rfl
    (collectScores_cons t222201110 (collectScores_cons v022221110 (collectScores_cons v022201112 collectScores_nil))) rfl

theorem v022221101 : readBoardAux P2 4 (⟨N0, N2, N2, N2, N2, N1, N1, N0, N1⟩ : Grid) P1 = some (ZM, some M21) :=
  readBoardAux_step P2 3 (⟨N0, N2, N2, N2, N2, N1, N1, N0, N1⟩ : Grid) P1 [M00, M21] rfl rfl
    (collectScores_cons v122221101 (collectScores_cons t022221111 collectScores_nil)) rfl

theorem v022201121 : readBoardAux P2 4 (⟨N0, N2, N2, N2, N0, N1, N1, N2, N1⟩ : Grid) P1 = some (ZP, some M00) :=
  readBoardAux_step P2 3 (⟨N0, N2, N2, N2, N0, N1, N1, N2, N1⟩ : Grid) P1 [M00, M11] rfl rfl
    (collectScores_cons v122201121 (collectScores_cons v022211121 collectScores_nil)) rfl

theorem v022201101 : readBoardAux P2 5 (⟨N0, N2, N2, N2, N0, N1, N1, N0, N1⟩ : Grid) P2 = some (ZP, some M00) :=
  readBoardAux_step P2 4 (⟨N0, N2, N2, N2, N0, N1, N1, N0, N1⟩ : Grid) P2 [M00, M11, M21] rfl rfl
    (collectScores_cons t222201101 (collectScores_cons v022221101 (collectScores_cons v022201121 collectScores_nil))) rfl

theorem v022201100 : readBoardAux P2 6 (⟨N0, N2, N2, N2, N0, N1, N1, N0, N0⟩ : Grid) P1 = some (Z0, some M00) :=
  readBoardAux_step P2 5 (⟨N0, N2, N2, N2, N0, N1, N1, N0, N0⟩ : Grid) P1 [M00, M11, M21, M22] rfl rfl
    (collectScores_cons v122201100 (collectScores_cons v022211100 (collectScores_cons v022201110 (collectScores_cons v022201101 collectScores_nil)))) rfl

theorem v022021112 : readBoardAux P2 4 (⟨N0, N2, N2, N0, N2, N1, N1, N1, N2⟩ : Grid) P1 = some (Z0, some M00) :=
  readBoardAux_step P2 3 (⟨N0, N2, N2, N0, N2, N1, N1, N1, N2⟩ : Grid) P1 [M00, M10] rfl rfl
    (collectScores_cons v122021112 (collectScores_cons v022121112 collectScores_nil)) rfl

theorem v022021110 : readBoardAux P2 5 (⟨N0, N2, N2, N0, N2, N1, N1, N1, N0⟩ : Grid) P2 = some (ZP, some M00) :=
  readBoardAux_step P2 4 (⟨N0, N2, N2, N0, N2, N1, N1, N1, N0⟩ : Grid) P2 [M00, M10, M22] rfl rfl
    (collectScores_cons t222021110 (collectScores_cons v022221110 (collectScores_cons v022021112 collectScores_nil))) rfl

theorem t022021121 : readBoardAux P2 4 (⟨N0, N2, N2, N0, N2, N1, N1, N2, N1⟩ : Grid) P1 = some (ZP, none) :=
  rfl

theorem v022021101 : readBoardAux P2 5 (⟨N0, N2, N2, N0, N2, N1, N1, N0, N1⟩ : Grid) P2 = some (ZP, some M00) :=
  readBoardAux_step P2 4 (⟨N0, N2, N2, N0, N2, N1, N1, N0, N1⟩ : Grid) P2 [M00, M10, M21] rfl rfl
    (collectScores_cons t222021101 (collectScores_cons v022221101 (collectScores_cons t022021121 collectScores_nil))) rfl

theorem v022021100 : readBoardAux P2 6 (⟨N0, N2, N2, N0, N2, N1, N1, N0, N0⟩ : Grid) P1 = some (ZP, some M00) :=
  readBoardAux_step P2 5 (⟨N0, N2, N2, N0, N2, N1, N1, N0, N0⟩ : Grid) P1 [M00, M10, M21, M22] rfl rfl
    (collectScores_cons v122021100 (collectScores_cons v022121100 (collectScores_cons v022021110 (collectScores_cons v022021101 collectScores_nil)))) rfl

theorem v022001121 : readBoardAux P2 5 (⟨N0, N2, N2, N0, N0, N1, N1, N2, N1⟩ : Grid) P2 = some (ZP, some M00) :=
  readBoardAux_step P2 4 (⟨N0, N2, N2, N0, N0, N1, N1, N2, N1⟩ : Grid) P2 [M00, M10, M11] rfl rfl
    (collectScores_cons t222001121 (collectScores_cons v022201121 (collectScores_cons t022021121 collectScores_nil))) rfl

theorem v022001120 : readBoardAux P2 6 (⟨N0, N2, N2, N0, N0, N1, N1, N2, N0⟩ : Grid) P1 = some (ZP, some M00) :=
  readBoardAux_step P2 5 (⟨N0, N2, N2, N0, N0, N1, N1, N2, N0⟩ : Grid) P1 [M00, M10, M11, M22] rfl rfl
    (collectScores_cons v122001120 (collectScores_cons v022101120 (collectScores_cons v022011120 (collectScores_cons v022001121 collectScores_nil)))) rfl

theorem v022001112 : readBoardAux P2 5 (⟨N0, N2, N2, N0, N0, N1, N1, N1, N2⟩ : Grid) P2 = some (ZP, some M00) :=
  readBoardAux_step P2 4 (⟨N0, N2, N2, N0, N0, N1, N1, N1, N2⟩ : Grid) P2 [M00, M10, M11] rfl rfl
    (collectScores_cons t222001112 (collectScores_cons v022201112 (collectScores_cons v022021112 collectScores_nil))) rfl

theorem v022001102 : readBoardAux P2 6 (⟨N0, N2, N2, N0, N0, N1, N1, N0, N2⟩ : Grid) P1 = some (Z0, some M00) :=
  readBoardAux_step P2 5 (⟨N0, N2, N2, N0, N0, N1, N1, N0, N2⟩ : Grid) P1 [M00, M10, M11, M21] rfl rfl
    (collectScores_cons v122001102 (collectScores_cons v022101102 (collectScores_cons v022011102 (collectScores_cons v022001112 collectScores_nil)))) rfl

theorem v022001100 : readBoardAux P2 7 (⟨N0, N2, N2, N0, N0, N1, N1, N0, N0⟩ : Grid) P2 = some (ZP, some M00) :=
  readBoardAux_step P2 6 (⟨N0, N2, N2, N0, N0, N1, N1, N0, N0⟩ : Grid) P2 [M00, M10, M11, M21, M22] rfl rfl
    (collectScores_cons t222001100 (collectScores_cons v022201100 (collectScores_cons v022021100 (collectScores_cons v022001120 (collectScores_cons v022001102 collectScores_nil))))) rfl

theorem v022221011 : readBoardAux P2 4 (⟨N0, N2, N2, N2, N2, N1, N0, N1, N1⟩ : Grid) P1 = some (ZM, some M20) :=
  readBoardAux_step P2 3 (⟨N0, N2, N2, N2, N2, N1, N0, N1, N1⟩ : Grid) P1 [M00, M20] rfl rfl
    (collectScores_cons v122221011 (collectScores_cons t022221111 collectScores_nil)) rfl

theorem v022201211 : readBoardAux P2 4 (⟨N0, N2, N2, N2, N0, N1, N2, N1, N1⟩ : Grid) P1 = some (ZP, some M00) :=
  readBoardAux_step P2 3 (⟨N0, N2, N2, N2, N0, N1, N2, N1, N1⟩ : Grid) P1 [M00, M11] rfl rfl
    (collectScores_cons v122201211 (collectScores_cons v022211211 collectScores_nil)) rfl

theorem v022201011 : readBoardAux P2 5 (⟨N0, N2, N2, N2, N0, N1, N0, N1, N1⟩ : Grid) P2 = some (ZP, some M00) :=
  readBoardAux_step P2 4 (⟨N0, N2, N2, N2, N0, N1, N0, N1, N1⟩ : Grid) P2 [M00, M11, M20] rfl rfl
    (collectScores_cons t222201011 (collectScores_cons v022221011 (collectScores_cons v022201211 collectScores_nil))) rfl

theorem v022201010 : readBoardAux P2 6 (⟨N0, N2, N2, N2, N0, N1, N0, N1, N0⟩ : Grid) P1 = some (Z0, some M00) :=
  readBoardAux_step P2 5 (⟨N0, N2, N2, N2, N0, N1, N0, N1, N0⟩ : Grid) P1 [M00, M11, M20, M22] rfl rfl
    (collectScores_cons v122201010 (collectScores_cons v022211010 (collectScores_cons v022201110 (collectScores_cons v022201011 collectScores_nil)))) rfl

theorem t022021211 : readBoardAux P2 4 (⟨N0, N2, N2, N0, N2, N1, N2, N1, N1⟩ : Grid) P1 = some (ZP, none) :=
  rfl

theorem v022021011 : readBoardAux P2 5 (⟨N0, N2, N2, N0, N2, N1, N0, N1, N1⟩ : Grid) P2 = some (ZP, some M00) :=
  readBoardAux_step P2 4 (⟨N0, N2, N2, N0, N2, N1, N0, N1, N1⟩ : Grid) P2 [M00, M10, M20] rfl rfl
    (collectScores_cons t222021011 (collectScores_cons v022221011 (collectScores_cons t022021211 collectScores_nil))) rfl

theorem v022021010 : readBoardAux P2 6 (⟨N0, N2, N2, N0, N2, N1, N0, N1, N0⟩ : Grid) P1 = some (ZP, some M00) :=
  readBoardAux_step P2 5 (⟨N0, N2, N2, N0, N2, N1, N0, N1, N0⟩ : Grid) P1 [M00, M10, M20, M22] rfl rfl
    (collectScores_cons v122021010 (collectScores_cons v022121010 (collectScores_cons v022021110 (collectScores_cons v022021011 collectScores_nil)))) rfl

theorem v022001211 : readBoardAux P2 5 (⟨N0, N2, N2, N0, N0, N1, N2, N1, N1⟩ : Grid) P2 = some (ZP, some M00) :=
  readBoardAux_step P2 4 (⟨N0, N2, N2, N0, N0, N1, N2, N1, N1⟩ : Grid) P2 [M00, M10, M11] rfl rfl
    (collectScores_cons t222001211 (collectScores_cons v022201211 (collectScores_cons t022021211 collectScores_nil))) rfl

theorem v022001210 : readBoardAux P2 6 (⟨N0, N2, N2, N0, N0, N1, N2, N1, N0⟩ : Grid) P1 = some (ZP, some M00) :=
  readBoardAux_step P2 5 (⟨N0, N2, N2, N0, N0, N1, N2, N1, N0⟩ : Grid) P1 [M00, M10, M11, M22] rfl rfl
    (collectScores_cons v122001210 (collectScores_cons v022101210 (collectScores_cons v022011210 (collectScores_cons v022001211 collectScores_nil)))) rfl

theorem v022001012 : readBoardAux P2 6 (⟨N0, N2, N2, N0, N0, N1, N0, N1, N2⟩ : Grid) P1 = some (Z0, some M00) :=
  readBoardAux_step P2 5 (⟨N0, N2, N2, N0, N0, N1, N0, N1, N2⟩ : Grid) P1 [M00, M10, M11, M20] rfl rfl
    (collectScores_cons v122001012 (collectScores_cons v022101012 (collectScores_cons v022011012 (collectScores_cons v022001112 collectScores_nil)))) rfl

theorem v022001010 : readBoardAux P2 7 (⟨N0, N2, N2, N0, N0, N1, N0, N1, N0⟩ : Grid) P2 = some (ZP, some M00) :=
  readBoardAux_step P2 6 (⟨N0, N2, N2, N0, N0, N1, N0, N1, N0⟩ : Grid) P2 [M00, M10, M11, M20, M22] rfl rfl
    (collectScores_cons t222001010 (collectScores_cons v022201010 (collectScores_cons v022021010 (collectScores_cons v022001210 (collectScores_cons v022001012 collectScores_nil))))) rfl

theorem v022201001 : readBoardAux P2 6 (⟨N0, N2, N2, N2, N0, N1, N0, N0, N1⟩ : Grid) P1 = some (ZP, some M00) :=
  readBoardAux_step P2 5 (⟨N0, N2, N2, N2, N0, N1, N0, N0, N1⟩ : Grid) P1 [M00, M11, M20, M21] rfl rfl
    (collectScores_cons v122201001 (collectScores_cons v022211001 (collectScores_cons v022201101 (collectScores_cons v022201011 collectScores_nil)))) rfl

theorem v022021001 : readBoardAux P2 6 (⟨N0, N2, N2, N0, N2, N1, N0, N0, N1⟩ : Grid) P1 = some (ZP, some M00) :=
  readBoardAux_step P2 5 (⟨N0, N2, N2, N0, N2, N1, N0, N0, N1⟩ : Grid) P1 [M00, M10, M20, M21] rfl rfl
    (collectScores_cons v122021001 (collectScores_cons v022121001 (collectScores_cons v022021101 (collectScores_cons v022021011 collectScores_nil)))) rfl

theorem v022001201 : readBoardAux P2 6 (⟨N0, N2, N2, N0, N0, N1, N2, N0, N1⟩ : Grid) P1 = some (ZP, some M00) :=
  readBoardAux_step P2 5 (⟨N0, N2, N2, N0, N0, N1, N2, N0, N1⟩ : Grid) P1 [M00, M10, M11, M21] rfl rfl
    (collectScores_cons v122001201 (collectScores_cons v022101201 (collectScores_cons v022011201 (collectScores_cons v022001211 collectScores_nil)))) rfl

theorem v022001021 : readBoardAux P2 6 (⟨N0, N2, N2, N0, N0, N1, N0, N2, N1⟩ : Grid) P1 = some (ZP, some M00) :=
  readBoardAux_step P2 5 (⟨N0, N2, N2, N0, N0, N1, N0, N2, N1⟩ : Grid) P1 [M00, M10, M11, M20] rfl rfl
    (collectScores_cons v122001021 (collectScores_cons v022101021 (collectScores_cons v022011021 (collectScores_cons v022001121 collectScores_nil)))) rfl

theorem v022001001 : readBoardAux P2 7 (⟨N0, N2, N2, N0, N0, N1, N0, N0, N1⟩ : Grid) P2 = some (ZP, some M00) :=
  readBoardAux_step P2 6 (⟨N0, N2, N2, N0, N0, N1, N0, N0, N1⟩ : Grid) P2 [M00, M10, M11, M20, M21] rfl rfl
    (collectScores_cons t222001001 (collectScores_cons v022201001 (collectScores_cons v022021001 (collectScores_cons v022001201 (collectScores_cons v022001021 collectScores_nil))))) rfl

theorem v022001000 : readBoardAux P2 8 (⟨N0, N2, N2, N0, N0, N1, N0, N0, N0⟩ : Grid) P1 = some (ZP, some M00) :=
  readBoardAux_step P2 7 (⟨N0, N2, N2, N0, N0, N1, N0, N0, N0⟩ : Grid) P1 [M00, M10, M11, M20, M21, M22] rfl rfl
    (collectScores_cons v122001000 (collectScores_cons v022101000 (collectScores_cons v022011000 (collectScores_cons v022001100 (collectScores_cons v022001010 (collectScores_cons v022001001 collectScores_nil)))))) rfl

theorem v020221112 : readBoardAux P2 4 (⟨N0, N2, N0, N2, N2, N1, N1, N1, N2⟩ : Grid) P1 = some (Z0, some M00) :=
  readBoardAux_step P2 3 (⟨N0, N2, N0, N2, N2, N1, N1, N1, N2⟩ : Grid) P1 [M00, M02] rfl rfl
    (collectScores_cons v120221112 (collectScores_cons v021221112 collectScores_nil)) rfl

theorem v020221110 : readBoardAux P2 5 (⟨N0, N2, N0, N2, N2, N1, N1, N1, N0⟩ : Grid) P2 = some (Z0, some M22) :=
  readBoardAux_step P2 4 (⟨N0, N2, N0, N2, N2, N1, N1, N1, N0⟩ : Grid) P2 [M00, M02, M22] rfl rfl
    (collectScores_cons v220221110 (collectScores_cons v022221110 (collectScores_cons v020221112 collectScores_nil))) rfl

theorem t020221121 : readBoardAux P2 4 (⟨N0, N2, N0, N2, N2, N1, N1, N2, N1⟩ : Grid) P1 = some (ZP, none) :=
  rfl

theorem v020221101 : readBoardAux P2 5 (⟨N0, N2, N0, N2, N2, N1, N1, N0, N1⟩ : Grid) P2 = some (ZP, some M21) :=
  readBoardAux_step P2 4 (⟨N0, N2, N0, N2, N2, N1, N1, N0, N1⟩ : Grid) P2 [M00, M02, M21] rfl rfl
    (collectScores_cons v220221101 (collectScores_cons v022221101 (collectScores_cons t020221121 collectScores_nil))) rfl

theorem v020221100 : readBoardAux P2 6 (⟨N0, N2, N0, N2, N2, N1, N1, N0, N0⟩ : Grid) P1 = some (Z0, some M21) :=
  readBoardAux_step P2 5 (⟨N0, N2, N0, N2, N2, N1, N1, N0, N0⟩ : Grid) P1 [M00, M02, M21, M22] rfl rfl
    (collectScores_cons v120221100 (collectScores_cons v021221100 (collectScores_cons v020221110 (collectScores_cons v020221101 collectScores_nil)))) rfl

theorem v020201121 : readBoardAux P2 5 (⟨N0, N2, N0, N2, N0, N1, N1, N2, N1⟩ : Grid) P2 = some (ZP, some M02) :=
  readBoardAux_step P2 4 (⟨N0, N2, N0, N2, N0, N1, N1, N2, N1⟩ : Grid) P2 [M00, M02, M11] rfl rfl
    (collectScores_cons v220201121 (collectScores_cons v022201121 (collectScores_cons t020221121 collectScores_nil))) rfl

theorem v020201120 : readBoardAux P2 6 (⟨N0, N2, N0, N2, N0, N1, N1, N2, N0⟩ : Grid) P1 = some (Z0, some M11) :=
  readBoardAux_step P2 5 (⟨N0, N2, N0, N2, N0, N1, N1, N2, N0⟩ : Grid) P1 [M00, M02, M11, M22] rfl rfl
    (collectScores_cons v120201120 (collectScores_cons v021201120 (collectScores_cons v020211120 (collectScores_cons v020201121 collectScores_nil)))) rfl

theorem v020201112 : readBoardAux P2 5 (⟨N0, N2, N0, N2, N0, N1, N1, N1, N2⟩ : Grid) P2 = some (ZP, some M00) :=
  readBoardAux_step P2 4 (⟨N0, N2, N0, N2, N0, N1, N1, N1, N2⟩ : Grid) P2 [M00, M02, M11] rfl rfl
    (collectScores_cons v220201112 (collectScores_cons v022201112 (collectScores_cons v020221112 collectScores_nil))) rfl

theorem v020201102 : readBoardAux P2 6 (⟨N0, N2, N0, N2, N0, N1, N1, N0, N2⟩ : Grid) P1 = some (Z0, some M00) :=
  readBoardAux_step P2 5 (⟨N0, N2, N0, N2, N0, N1, N1, N0, N2⟩ : Grid) P1 [M00, M02, M11, M21] rfl rfl
    (collectScores_cons v120201102 (collectScores_cons v021201102 (collectScores_cons v020211102 (collectScores_cons v020201112 collectScores_nil)))) rfl

theorem v020201100 : readBoardAux P2 7 (⟨N0, N2, N0, N2, N0, N1, N1, N0, N0⟩ : Grid) P2 = some (Z0, some M02) :=
  readBoardAux_step P2 6 (⟨N0, N2, N0, N2, N0, N1, N1, N0, N0⟩ : Grid) P2 [M00, M02, M11, M21, M22] rfl rfl
    (collectScores_cons v220201100 (collectScores_cons v022201100 (collectScores_cons v020221100 (collectScores_cons v020201120 (collectScores_cons v020201102 collectScores_nil))))) rfl

theorem v020221211 : readBoardAux P2 4 (⟨N0, N2, N0, N2, N2, N1, N2, N1, N1⟩ : Grid) P1 = some (ZM, some M02) :=
  readBoardAux_step P2 3 (⟨N0, N2, N0, N2, N2, N1, N2, N1, N1⟩ : Grid) P1 [M00, M02] rfl rfl
    (collectScores_cons v120221211 (collectScores_cons t021221211 collectScores_nil)) rfl

theorem v020221011 : readBoardAux P2 5 (⟨N0, N2, N0, N2, N2, N1, N0, N1, N1⟩ : Grid) P2 = some (ZM, some M00) :=
  readBoardAux_step P2 4 (⟨N0, N2, N0, N2, N2, N1, N0, N1, N1⟩ : Grid) P2 [M00, M02, M20] rfl rfl
    (collectScores_cons v220221011 (collectScores_cons v022221011 (collectScores_cons v020221211 collectScores_nil))) rfl

theorem v020221010 : readBoardAux P2 6 (⟨N0, N2, N0, N2, N2, N1, N0, N1, N0⟩ : Grid) P1 = some (ZM, some M22) :=
  readBoardAux_step P2 5 (⟨N0, N2, N0, N2, N2, N1, N0, N1, N0⟩ : Grid) P1 [M00, M02, M20, M22] rfl rfl
    (collectScores_cons v120221010 (collectScores_cons v021221010 (collectScores_cons v020221110 (collectScores_cons v020221011 collectScores_nil)))) rfl

theorem v020201211 : readBoardAux P2 5 (⟨N0, N2, N0, N2, N0, N1, N2, N1, N1⟩ : Grid) P2 = some (ZP, some M00) :=
  readBoardAux_step P2 4 (⟨N0, N2, N0, N2, N0, N1, N2, N1, N1⟩ : Grid) P2 [M00, M02, M11] rfl rfl
    (collectScores_cons t220201211 (collectScores_cons v022201211 (collectScores_cons v020221211 collectScores_nil))) rfl

theorem v020201210 : readBoardAux P2 6 (⟨N0, N2, N0, N2, N0, N1, N2, N1, N0⟩ : Grid) P1 = some (Z0, some M00) :=
  readBoardAux_step P2 5 (⟨N0, N2, N0, N2, N0, N1, N2, N1, N0⟩ : Grid) P1 [M00, M02, M11, M22] rfl rfl
    (collectScores_cons v120201210 (collectScores_cons v021201210 (collectScores_cons v020211210 (collectScores_cons v020201211 collectScores_nil)))) rfl

theorem v020201012 : readBoardAux P2 6 (⟨N0, N2, N0, N2, N0, N1, N0, N1, N2⟩ : Grid) P1 = some (Z0, some M00) :=
  readBoardAux_step P2 5 (⟨N0, N2, N0, N2, N0, N1, N0, N1, N2⟩ : Grid) P1 [M00, M02, M11, M20] rfl rfl
    (collectScores_cons v120201012 (collectScores_cons v021201012 (collectScores_cons v020211012 (collectScores_cons v020201112 collectScores_nil)))) rfl

theorem v020201010 : readBoardAux P2 7 (⟨N0, N2, N0, N2, N0, N1, N0, N1, N0⟩ : Grid) P2 = some (ZP, some M00) :=
  readBoardAux_step P2 6 (⟨N0, N2, N0, N2, N0, N1, N0, N1, N0⟩ : Grid) P2 [M00, M02, M11, M20, M22] rfl rfl
    (collectScores_cons v220201010 (collectScores_cons v022201010 (collectScores_cons v020221010 (collectScores_cons v020201210 (collectScores_cons v020201012 collectScores_nil))))) rfl

theorem v020221001 : readBoardAux P2 6 (⟨N0, N2, N0, N2, N2, N1, N0, N0, N1⟩ : Grid) P1 = some (ZM, some M02) :=
  readBoardAux_step P2 5 (⟨N0, N2, N0, N2, N2, N1, N0, N0, N1⟩ : Grid) P1 [M00, M02, M20, M21] rfl rfl
    (collectScores_cons v120221001 (collectScores_cons t021221001 (collectScores_cons v020221101 (collectScores_cons v020221011 collectScores_nil)))) rfl

theorem v020201201 : readBoardAux P2 6 (⟨N0, N2, N0, N2, N0, N1, N2, N0, N1⟩ : Grid) P1 = some (ZM, some M00) :=
  readBoardAux_step P2 5 (⟨N0, N2, N0, N2, N0, N1, N2, N0, N1⟩ : Grid) P1 [M00, M02, M11, M21] rfl rfl
    (collectScores_cons v120201201 (collectScores_cons t021201201 (collectScores_cons v020211201 (collectScores_cons v020201211 collectScores_nil)))) rfl

theorem v020201021 : readBoardAux P2 6 (⟨N0, N2, N0, N2, N0, N1, N0, N2, N1⟩ : Grid) P1 = some (ZM, some M02) :=
  readBoardAux_step P2 5 (⟨N0, N2, N0, N2, N0, N1, N0, N2, N1⟩ : Grid) P1 [M00, M02, M11, M20] rfl rfl
    (collectScores_cons v120201021 (collectScores_cons t021201021 (collectScores_cons v020211021 (collectScores_cons v020201121 collectScores_nil)))) rfl

theorem v020201001 : readBoardAux P2 7 (⟨N0, N2, N0, N2, N0, N1, N0, N0, N1⟩ : Grid) P2 = some (ZP, some M02) :=
  readBoardAux_step P2 6 (⟨N0, N2, N0, N2, N0, N1, N0, N0, N1⟩ : Grid) P2 [M00, M02, M11, M20, M21] rfl rfl
    (collectScores_cons v220201001 (collectScores_cons v022201001 (collectScores_cons v020221001 (collectScores_cons v020201201 (collectScores_cons v020201021 collectScores_nil))))) rfl

theorem v020201000 : readBoardAux P2 8 (⟨N0, N2, N0, N2, N0, N1, N0, N0, N0⟩ : Grid) P1 = some (Z0, some M00) :=
  readBoardAux_step P2 7 (⟨N0, N2, N0, N2, N0, N1, N0, N0, N0⟩ : Grid) P1 [M00, M02, M11, M20, M21, M22] rfl rfl
    (collectScores_cons v120201000 (collectScores_cons v021201000 (collectScores_cons v020211000 (collectScores_cons v020201100 (collectScores_cons v020201010 (collectScores_cons v020201001 collectScores_nil)))))) rfl

theorem t020021120 : readBoardAux P2 6 (⟨N0, N2, N0, N0, N2, N1, N1, N2, N0⟩ : Grid) P1 = some (ZP, none) :=
  rfl

theorem v020021112 : readBoardAux P2 5 (⟨N0, N2, N0, N0, N2, N1, N1, N1, N2⟩ : Grid) P2 = some (ZP, some M00) :=
  readBoardAux_step P2 4 (⟨N0, N2, N0, N0, N2, N1, N1, N1, N2⟩ : Grid) P2 [M00, M02, M10] rfl rfl
    (collectScores_cons t220021112 (collectScores_cons v022021112 (collectScores_cons v020221112 collectScores_nil))) rfl

theorem v020021102 : readBoardAux P2 6 (⟨N0, N2, N0, N0, N2, N1, N1, N0, N2⟩ : Grid) P1 = some (ZP, some M00) :=
  readBoardAux_step P2 5 (⟨N0, N2, N0, N0, N2, N1, N1, N0, N2⟩ : Grid) P1 [M00, M02, M10, M21] rfl rfl
    (collectScores_cons v120021102 (collectScores_cons v021021102 (collectScores_cons v020121102 (collectScores_cons v020021112 collectScores_nil)))) rfl

theorem v020021100 : readBoardAux P2 7 (⟨N0, N2, N0, N0, N2, N1, N1, N0, N0⟩ : Grid) P2 = some (ZP, some M00) :=
  readBoardAux_step P2 6 (⟨N0, N2, N0, N0, N2, N1, N1, N0, N0⟩ : Grid) P2 [M00, M02, M10, M21, M22] rfl rfl
    (collectScores_cons v220021100 (collectScores_cons v022021100 (collectScores_cons v020221100 (collectScores_cons t020021120 (collectScores_cons v020021102 collectScores_nil))))) rfl

theorem v020021211 : readBoardAux P2 5 (⟨N0, N2, N0, N0, N2, N1, N2, N1, N1⟩ : Grid) P2 = some (ZP, some M02) :=
  readBoardAux_step P2 4 (⟨N0, N2, N0, N0, N2, N1, N2, N1, N1⟩ : Grid) P2 [M00, M02, M10] rfl rfl
    (collectScores_cons v220021211 (collectScores_cons t022021211 (collectScores_cons v020221211 collectScores_nil))) rfl

theorem v020021210 : readBoardAux P2 6 (⟨N0, N2, N0, N0, N2, N1, N2, N1, N0⟩ : Grid) P1 = some (Z0, some M02) :=
  readBoardAux_step P2 5 (⟨N0, N2, N0, N0, N2, N1, N2, N1, N0⟩ : Grid) P1 [M00, M02, M10, M22] rfl rfl
    (collectScores_cons v120021210 (collectScores_cons v021021210 (collectScores_cons v020121210 (collectScores_cons v020021211 collectScores_nil)))) rfl

theorem v020021012 : readBoardAux P2 6 (⟨N0, N2, N0, N0, N2, N1, N0, N1, N2⟩ : Grid) P1 = some (Z0, some M00) :=
  readBoardAux_step P2 5 (⟨N0, N2, N0, N0, N2, N1, N0, N1, N2⟩ : Grid) P1 [M00, M02, M10, M20] rfl rfl
    (collectScores_cons v120021012 (collectScores_cons v021021012 (collectScores_cons v020121012 (collectScores_cons v020021112 collectScores_nil)))) rfl

theorem v020021010 : readBoardAux P2 7 (⟨N0, N2, N0, N0, N2, N1, N0, N1, N0⟩ : Grid) P2 = some (ZP, some M00) :=
  readBoardAux_step P2 6 (⟨N0, N2, N0, N0, N2, N1, N0, N1, N0⟩ : Grid) P2 [M00, M02, M10, M20, M22] rfl rfl
    (collectScores_cons v220021010 (collectScores_cons v022021010 (collectScores_cons v020221010 (collectScores_cons v020021210 (collectScores_cons v020021012 collectScores_nil))))) rfl

theorem v020021201 : readBoardAux P2 6 (⟨N0, N2, N0, N0, N2, N1, N2, N0, N1⟩ : Grid) P1 = some (ZM, some M02) :=
  readBoardAux_step P2 5 (⟨N0, N2, N0, N0, N2, N1, N2, N0, N1⟩ : Grid) P1 [M00, M02, M10, M21] rfl rfl
    (collectScores_cons v120021201 (collectScores_cons t021021201 (collectScores_cons v020121201 (collectScores_cons v020021211 collectScores_nil)))) rfl

theorem t020021021 : readBoardAux P2 6 (⟨N0, N2, N0, N0, N2, N1, N0, N2, N1⟩ : Grid) P1 = some (ZP, none) :=
  rfl

theorem v020021001 : readBoardAux P2 7 (⟨N0, N2, N0, N0, N2, N1, N0, N0, N1⟩ : Grid) P2 = some (ZP, some M02) :=
  readBoardAux_step P2 6 (⟨N0, N2, N0, N0, N2, N1, N0, N0, N1⟩ : Grid) P2 [M00, M02, M10, M20, M21] rfl rfl
    (collectScores_cons v220021001 (collectScores_cons v022021001 (collectScores_cons v020221001 (collectScores_cons v020021201 (collectScores_cons t020021021 collectScores_nil))))) rfl

theorem v020021000 : readBoardAux P2 8 (⟨N0, N2, N0, N0, N2, N1, N0, N0, N0⟩ : Grid) P1 = some (ZP, some M00) :=
  readBoardAux_step P2 7 (⟨N0, N2, N0, N0, N2, N1, N0, N0, N0⟩ : Grid) P1 [M00, M02, M10, M20, M21, M22] rfl rfl
    (collectScores_cons v120021000 (collectScores_cons v021021000 (collectScores_cons v020121000 (collectScores_cons v020021100 (collectScores_cons v020021010 (collectScores_cons v020021001 collectScores_nil)))))) rfl

theorem v020001212 : readBoardAux P2 6 (⟨N0, N2, N0, N0, N0, N1, N2, N1, N2⟩ : Grid) P1 = some (Z0, some M00) :=
  readBoardAux_step P2 5 (⟨N0, N2, N0, N0, N0, N1, N2, N1, N2⟩ : Grid) P1 [M00, M02, M10, M11] rfl rfl
    (collectScores_cons v120001212 (collectScores_cons v021001212 (collectScores_cons v020101212 (collectScores_cons v020011212 collectScores_nil)))) rfl

theorem v020001210 : readBoardAux P2 7 (⟨N0, N2, N0, N0, N0, N1, N2, N1, N0⟩ : Grid) P2 = some (ZP, some M00) :=
  readBoardAux_step P2 6 (⟨N0, N2, N0, N0, N0, N1, N2, N1, N0⟩ : Grid) P2 [M00, M02, M10, M11, M22] rfl rfl
    (collectScores_cons v220001210 (collectScores_cons v022001210 (collectScores_cons v020201210 (collectScores_cons v020021210 (collectScores_cons v020001212 collectScores_nil))))) rfl

theorem v020001221 : readBoardAux P2 6 (⟨N0, N2, N0, N0, N0, N1, N2, N2, N1⟩ : Grid) P1 = some (ZM, some M02) :=
  readBoardAux_step P2 5 (⟨N0, N2, N0, N0, N0, N1, N2, N2, N1⟩ : Grid) P1 [M00, M02, M10, M11] rfl rfl
    (collectScores_cons v120001221 (collectScores_cons t021001221 (collectScores_cons v020101221 (collectScores_cons v020011221 collectScores_nil)))) rfl

theorem v020001201 : readBoardAux P2 7 (⟨N0, N2, N0, N0, N0, N1, N2, N0, N1⟩ : Grid) P2 = some (ZP, some M02) :=
  readBoardAux_step P2 6 (⟨N0, N2, N0, N0, N0, N1, N2, N0, N1⟩ : Grid) P2 [M00, M02, M10, M11, M21] rfl rfl
    (collectScores_cons v220001201 (collectScores_cons v022001201 (collectScores_cons v020201201 (collectScores_cons v020021201 (collectScores_cons v020001221 collectScores_nil))))) rfl

theorem v020001200 : readBoardAux P2 8 (⟨N0, N2, N0, N0, N0, N1, N2, N0, N0⟩ : Grid) P1 = some (Z0, some M11) :=
  readBoardAux_step P2 7 (⟨N0, N2, N0, N0, N0, N1, N2, N0, N0⟩ : Grid) P1 [M00, M02, M10, M11, M21, M22] rfl rfl
    (collectScores_cons v120001200 (collectScores_cons v021001200 (collectScores_cons v020101200 (collectScores_cons v020011200 (collectScores_cons v020001210 (collectScores_cons v020001201 collectScores_nil)))))) rfl

theorem v020001122 : readBoardAux P2 6 (⟨N0, N2, N0, N0, N0, N1, N1, N2, N2⟩ : Grid) P1 = some (ZM, some M11) :=
  readBoardAux_step P2 5 (⟨N0, N2, N0, N0, N0, N1, N1, N2, N2⟩ : Grid) P1 [M00, M02, M10, M11] rfl rfl
    (collectScores_cons v120001122 (collectScores_cons v021001122 (collectScores_cons v020101122 (collectScores_cons v020011122 collectScores_nil)))) rfl

theorem v020001120 : readBoardAux P2 7 (⟨N0, N2, N0, N0, N0, N1, N1, N2, N0⟩ : Grid) P2 = some (ZP, some M00) :=
  readBoardAux_step P2 6 (⟨N0, N2, N0, N0, N0, N1, N1, N2, N0⟩ : Grid) P2 [M00, M02, M10, M11, M22] rfl rfl
    (collectScores_cons v220001120 (collectScores_cons v022001120 (collectScores_cons v020201120 (collectScores_cons t020021120 (collectScores_cons v020001122 collectScores_nil))))) rfl

theorem v020001021 : readBoardAux P2 7 (⟨N0, N2, N0, N0, N0, N1, N0, N2, N1⟩ : Grid) P2 = some (ZP, some M02) :=
  readBoardAux_step P2 6 (⟨N0, N2, N0, N0, N0, N1, N0, N2, N1⟩ : Grid) P2 [M00, M02, M10, M11, M20] rfl rfl
    (collectScores_cons v220001021 (collectScores_cons v022001021 (collectScores_cons v020201021 (collectScores_cons t020021021 (collectScores_cons v020001221 collectScores_nil))))) rfl

theorem v020001020 : readBoardAux P2 8 (⟨N0, N2, N0, N0, N0, N1, N0, N2, N0⟩ : Grid) P1 = some (ZM, some M11) :=
  readBoardAux_step P2 7 (⟨N0, N2, N0, N0, N0, N1, N0, N2, N0⟩ : Grid) P1 [M00, M02, M10, M11, M20, M22] rfl rfl
    (collectScores_cons v120001020 (collectScores_cons v021001020 (collectScores_cons v020101020 (collectScores_cons v020011020 (collectScores_cons v020001120 (collectScores_cons v020001021 collectScores_nil)))))) rfl

theorem v020001102 : readBoardAux P2 7 (⟨N0, N2, N0, N0, N0, N1, N1, N0, N2⟩ : Grid) P2 = some (ZP, some M00) :=
  readBoardAux_step P2 6 (⟨N0, N2, N0, N0, N0, N1, N1, N0, N2⟩ : Grid) P2 [M00, M02, M10, M11, M21] rfl rfl
    (collectScores_cons v220001102 (collectScores_cons v022001102 (collectScores_cons v020201102 (collectScores_cons v020021102 (collectScores_cons v020001122 collectScores_nil))))) rfl

theorem v020001012 : readBoardAux P2 7 (⟨N0, N2, N0, N0, N0, N1, N0, N1, N2⟩ : Grid) P2 = some (ZP, some M00) :=
  readBoardAux_step P2 6 (⟨N0, N2, N0, N0, N0, N1, N0, N1, N2⟩ : Grid) P2 [M00, M02, M10, M11, M20] rfl rfl
    (collectScores_cons v220001012 (collectScores_cons v022001012 (collectScores_cons v020201012 (collectScores_cons v020021012 (collectScores_cons v020001212 collectScores_nil))))) rfl

theorem v020001002 : readBoardAux P2 8 (⟨N0, N2, N0, N0, N0, N1, N0, N0, N2⟩ : Grid) P1 = some (Z0, some M11) :=
  readBoardAux_step P2 7 (⟨N0, N2, N0, N0, N0, N1, N0, N0, N2⟩ : Grid) P1 [M00, M02, M10, M11, M20, M21] rfl rfl
    (collectScores_cons v120001002 (collectScores_cons v021001002 (collectScores_cons v020101002 (collectScores_cons v020011002 (collectScores_cons v020001102 (collectScores_cons v020001012 collectScores_nil)))))) rfl

theorem v020001000 : readBoardAux P2 9 (⟨N0, N2, N0, N0, N0, N1, N0, N0, N0⟩ : Grid) P2 = some (ZP, some M02) :=
  readBoardAux_step P2 8 (⟨N0, N2, N0, N0, N0, N1, N0, N0, N0⟩ : Grid) P2 [M00, M02, M10, M11, M20, M21, M22] rfl rfl
    (collectScores_cons v220001000 (collectScores_cons v022001000 (collectScores_cons v020201000 (collectScores_cons v020021000 (collectScores_cons v020001200 (collectScores_cons v020001020 (collectScores_cons v020001002 collectScores_nil))))))) rfl

theorem t022200111 : readBoardAux P2 5 (⟨N0, N2, N2, N2, N0, N0, N1, N1, N1⟩ : Grid) P2 = some (ZM, none) :=
  rfl

theorem v022200110 : readBoardAux P2 6 (⟨N0, N2, N2, N2, N0, N0, N1, N1, N0⟩ : Grid) P1 = some (ZM, some M22) :=
  readBoardAux_step P2 5 (⟨N0, N2, N2, N2, N0, N0, N1, N1, N0⟩ : Grid) P1 [M00, M11, M12, M22] rfl rfl
    (collectScores_cons v122200110 (collectScores_cons v022210110 (collectScores_cons v022201110 (collectScores_cons t022200111 collectScores_nil)))) rfl

theorem t022020111 : readBoardAux P2 5 (⟨N0, N2, N2, N0, N2, N0, N1, N1, N1⟩ : Grid) P2 = some (ZM, none) :=
  rfl

theorem v022020110 : readBoardAux P2 6 (⟨N0, N2, N2, N0, N2, N0, N1, N1, N0⟩ : Grid) P1 = some (ZM, some M00) :=
  readBoardAux_step P2 5 (⟨N0, N2, N2, N0, N2, N0, N1, N1, N0⟩ : Grid) P1 [M00, M10, M12, M22] rfl rfl
    (collectScores_cons v122020110 (collectScores_cons v022120110 (collectScores_cons v022021110 (collectScores_cons t022020111 collectScores_nil)))) rfl

theorem t022002111 : readBoardAux P2 5 (⟨N0, N2, N2, N0, N0, N2, N1, N1, N1⟩ : Grid) P2 = some (ZM, none) :=
  rfl

theorem v022002110 : readBoardAux P2 6 (⟨N0, N2, N2, N0, N0, N2, N1, N1, N0⟩ : Grid) P1 = some (ZM, some M22) :=
  readBoardAux_step P2 5 (⟨N0, N2, N2, N0, N0, N2, N1, N1, N0⟩ : Grid) P1 [M00, M10, M11, M22] rfl rfl
    (collectScores_cons v122002110 (collectScores_cons v022102110 (collectScores_cons v022012110 (collectScores_cons t022002111 collectScores_nil)))) rfl

theorem v022000112 : readBoardAux P2 6 (⟨N0, N2, N2, N0, N0, N0, N1, N1, N2⟩ : Grid) P1 = some (ZP, some M00) :=
  readBoardAux_step P2 5 (⟨N0, N2, N2, N0, N0, N0, N1, N1, N2⟩ : Grid) P1 [M00, M10, M11, M12] rfl rfl
    (collectScores_cons v122000112 (collectScores_cons v022100112 (collectScores_cons v022010112 (collectScores_cons v022001112 collectScores_nil)))) rfl

theorem v022000110 : readBoardAux P2 7 (⟨N0, N2, N2, N0, N0, N0, N1, N1, N0⟩ : Grid) P2 = some (ZP, some M00) :=
  readBoardAux_step P2 6 (⟨N0, N2, N2, N0, N0, N0, N1, N1, N0⟩ : Grid) P2 [M00, M10, M11, M12, M22] rfl rfl
    (collectScores_cons t222000110 (collectScores_cons v022200110 (collectScores_cons v022020110 (collectScores_cons v022002110 (collectScores_cons v022000112 collectScores_nil))))) rfl

theorem v022200101 : readBoardAux P2 6 (⟨N0, N2, N2, N2, N0, N0, N1, N0, N1⟩ : Grid) P1 = some (ZM, some M00) :=
  readBoardAux_step P2 5 (⟨N0, N2, N2, N2, N0, N0, N1, N0, N1⟩ : Grid) P1 [M00, M11, M12, M21] rfl rfl
    (collectScores_cons v122200101 (collectScores_cons v022210101 (collectScores_cons v022201101 (collectScores_cons t022200111 collectScores_nil)))) rfl

theorem v022020101 : readBoardAux P2 6 (⟨N0, N2, N2, N0, N2, N0, N1, N0, N1⟩ : Grid) P1 = some (ZM, some M21) :=
  readBoardAux_step P2 5 (⟨N0, N2, N2, N0, N2, N0, N1, N0, N1⟩ : Grid) P1 [M00, M10, M12, M21] rfl rfl
    (collectScores_cons v122020101 (collectScores_cons v022120101 (collectScores_cons v022021101 (collectScores_cons t022020111 collectScores_nil)))) rfl

theorem v022002101 : readBoardAux P2 6 (⟨N0, N2, N2, N0, N0, N2, N1, N0, N1⟩ : Grid) P1 = some (ZM, some M00) :=
  readBoardAux_step P2 5 (⟨N0, N2, N2, N0, N0, N2, N1, N0, N1⟩ : Grid) P1 [M00, M10, M11, M21] rfl rfl
    (collectScores_cons v122002101 (collectScores_cons v022102101 (collectScores_cons v022012101 (collectScores_cons t022002111 collectScores_nil)))) rfl

theorem v022000121 : readBoardAux P2 6 (⟨N0, N2, N2, N0, N0, N0, N1, N2, N1⟩ : Grid) P1 = some (ZP, some M00) :=
  readBoardAux_step P2 5 (⟨N0, N2, N2, N0, N0, N0, N1, N2, N1⟩ : Grid) P1 [M00, M10, M11, M12] rfl rfl
    (collectScores_cons v122000121 (collectScores_cons v022100121 (collectScores_cons v022010121 (collectScores_cons v022001121 collectScores_nil)))) rfl

theorem v022000101 : readBoardAux P2 7 (⟨N0, N2, N2, N0, N0, N0, N1, N0, N1⟩ : Grid) P2 = some (ZP, some M00) :=
  readBoardAux_step P2 6 (⟨N0, N2, N2, N0, N0, N0, N1, N0, N1⟩ : Grid) P2 [M00, M10, M11, M12, M21] rfl rfl
    (collectScores_cons t222000101 (collectScores_cons v022200101 (collectScores_cons v022020101 (collectScores_cons v022002101 (collectScores_cons v022000121 collectScores_nil))))) rfl

theorem v022000100 : readBoardAux P2 8 (⟨N0, N2, N2, N0, N0, N0, N1, N0, N0⟩ : Grid) P1 = some (ZM, some M00) :=
  readBoardAux_step P2 7 (⟨N0, N2, N2, N0, N0, N0, N1, N0, N0⟩ : Grid) P1 [M00, M10, M11, M12, M21, M22] rfl rfl
    (collectScores_cons v122000100 (collectScores_cons v022100100 (collectScores_cons v022010100 (collectScores_cons v022001100 (collectScores_cons v022000110 (collectScores_cons v022000101 collectScores_nil)))))) rfl

theorem t020220111 : readBoardAux P2 5 (⟨N0, N2, N0, N2, N2, N0, N1, N1, N1⟩ : Grid) P2 = some (ZM, none) :=
  rfl

theorem v020220110 : readBoardAux P2 6 (⟨N0, N2, N0, N2, N2, N0, N1, N1, N0⟩ : Grid) P1 = some (ZM, some M22) :=
  readBoardAux_step P2 5 (⟨N0, N2, N0, N2, N2, N0, N1, N1, N0⟩ : Grid) P1 [M00, M02, M12, M22] rfl rfl
    (collectScores_cons v120220110 (collectScores_cons v021220110 (collectScores_cons v020221110 (collectScores_cons t020220111 collectScores_nil)))) rfl

theorem t020202111 : readBoardAux P2 5 (⟨N0, N2, N0, N2, N0, N2, N1, N1, N1⟩ : Grid) P2 = some (ZM, none) :=
  rfl

theorem v020202110 : readBoardAux P2 6 (⟨N0, N2, N0, N2, N0, N2, N1, N1, N0⟩ : Grid) P1 = some (ZM, some M11) :=
  readBoardAux_step P2 5 (⟨N0, N2, N0, N2, N0, N2, N1, N1, N0⟩ : Grid) P1 [M00, M02, M11, M22] rfl rfl
    (collectScores_cons v120202110 (collectScores_cons v021202110 (collectScores_cons v020212110 (collectScores_cons t020202111 collectScores_nil)))) rfl

theorem v020200112 : readBoardAux P2 6 (⟨N0, N2, N0, N2, N0, N0, N1, N1, N2⟩ : Grid) P1 = some (ZP, some M00) :=
  readBoardAux_step P2 5 (⟨N0, N2, N0, N2, N0, N0, N1, N1, N2⟩ : Grid) P1 [M00, M02, M11, M12] rfl rfl
    (collectScores_cons v120200112 (collectScores_cons v021200112 (collectScores_cons v020210112 (collectScores_cons v020201112 collectScores_nil)))) rfl

theorem v020200110 : readBoardAux P2 7 (⟨N0, N2, N0, N2, N0, N0, N1, N1, N0⟩ : Grid) P2 = some (ZP, some M22) :=
  readBoardAux_step P2 6 (⟨N0, N2, N0, N2, N0, N0, N1, N1, N0⟩ : Grid) P2 [M00, M02, M11, M12, M22] rfl rfl
    (collectScores_cons v220200110 (collectScores_cons v022200110 (collectScores_cons v020220110 (collectScores_cons v020202110 (collectScores_cons v020200112 collectScores_nil))))) rfl

theorem v020220101 : readBoardAux P2 6 (⟨N0, N2, N0, N2, N2, N0, N1, N0, N1⟩ : Grid) P1 = some (ZM, some M21) :=
  readBoardAux_step P2 5 (⟨N0, N2, N0, N2, N2, N0, N1, N0, N1⟩ : Grid) P1 [M00, M02, M12, M21] rfl rfl
    (collectScores_cons v120220101 (collectScores_cons v021220101 (collectScores_cons v020221101 (collectScores_cons t020220111 collectScores_nil)))) rfl

theorem v020202101 : readBoardAux P2 6 (⟨N0, N2, N0, N2, N0, N2, N1, N0, N1⟩ : Grid) P1 = some (ZM, some M11) :=
  readBoardAux_step P2 5 (⟨N0, N2, N0, N2, N0, N2, N1, N0, N1⟩ : Grid) P1 [M00, M02, M11, M21] rfl rfl
    (collectScores_cons v120202101 (collectScores_cons v021202101 (collectScores_cons v020212101 (collectScores_cons t020202111 collectScores_nil)))) rfl

theorem v020200121 : readBoardAux P2 6 (⟨N0, N2, N0, N2, N0, N0, N1, N2, N1⟩ : Grid) P1 = some (ZM, some M11) :=
  readBoardAux_step P2 5 (⟨N0, N2, N0, N2, N0, N0, N1, N2, N1⟩ : Grid) P1 [M00, M02, M11, M12] rfl rfl
    (collectScores_cons v120200121 (collectScores_cons v021200121 (collectScores_cons v020210121 (collectScores_cons v020201121 collectScores_nil)))) rfl

theorem v020200101 : readBoardAux P2 7 (⟨N0, N2, N0, N2, N0, N0, N1, N0, N1⟩ : Grid) P2 = some (ZM, some M00) :=
  readBoardAux_step P2 6 (⟨N0, N2, N0, N2, N0, N0, N1, N0, N1⟩ : Grid) P2 [M00, M02, M11, M12, M21] rfl rfl
    (collectScores_cons v220200101 (collectScores_cons v022200101 (collectScores_cons v020220101 (collectScores_cons v020202101 (collectScores_cons v020200121 collectScores_nil))))) rfl

theorem v020200100 : readBoardAux P2 8 (⟨N0, N2, N0, N2, N0, N0, N1, N0, N0⟩ : Grid) P1 = some (ZM, some M22) :=
  readBoardAux_step P2 7 (⟨N0, N2, N0, N2, N0, N0, N1, N0, N0⟩ : Grid) P1 [M00, M02, M11, M12, M21, M22] rfl rfl
    (collectScores_cons v120200100 (collectScores_cons v021200100 (collectScores_cons v020210100 (collectScores_cons v020201100 (collectScores_cons v020200110 (collectScores_cons v020200101 collectScores_nil)))))) rfl

theorem t020022111 : readBoardAux P2 5 (⟨N0, N2, N0, N0, N2, N2, N1, N1, N1⟩ : Grid) P2 = some (ZM, none) :=
  rfl

theorem v020022110 : readBoardAux P2 6 (⟨N0, N2, N0, N0, N2, N2, N1, N1, N0⟩ : Grid) P1 = some (ZM, some M10) :=
  readBoardAux_step P2 5 (⟨N0, N2, N0, N0, N2, N2, N1, N1, N0⟩ : Grid) P1 [M00, M02, M10, M22] rfl rfl
    (collectScores_cons v120022110 (collectScores_cons v021022110 (collectScores_cons v020122110 (collectScores_cons t020022111 collectScores_nil)))) rfl

theorem v020020112 : readBoardAux P2 6 (⟨N0, N2, N0, N0, N2, N0, N1, N1, N2⟩ : Grid) P1 = some (Z0, some M00) :=
  readBoardAux_step P2 5 (⟨N0, N2, N0, N0, N2, N0, N1, N1, N2⟩ : Grid) P1 [M00, M02, M10, M12] rfl rfl
    (collectScores_cons v120020112 (collectScores_cons v021020112 (collectScores_cons v020120112 (collectScores_cons v020021112 collectScores_nil)))) rfl

theorem v020020110 : readBoardAux P2 7 (⟨N0, N2, N0, N0, N2, N0, N1, N1, N0⟩ : Grid) P2 = some (Z0, some M22) :=
  readBoardAux_step P2 6 (⟨N0, N2, N0, N0, N2, N0, N1, N1, N0⟩ : Grid) P2 [M00, M02, M10, M12, M22] rfl rfl
    (collectScores_cons v220020110 (collectScores_cons v022020110 (collectScores_cons v020220110 (collectScores_cons v020022110 (collectScores_cons v020020112 collectScores_nil))))) rfl

theorem v020022101 : readBoardAux P2 6 (⟨N0, N2, N0, N0, N2, N2, N1, N0, N1⟩ : Grid) P1 = some (ZM, some M21) :=
  readBoardAux_step P2 5 (⟨N0, N2, N0, N0, N2, N2, N1, N0, N1⟩ : Grid) P1 [M00, M02, M10, M21] rfl rfl
    (collectScores_cons v120022101 (collectScores_cons v021022101 (collectScores_cons v020122101 (collectScores_cons t020022111 collectScores_nil)))) rfl

theorem t020020121 : readBoardAux P2 6 (⟨N0, N2, N0, N0, N2, N0, N1, N2, N1⟩ : Grid) P1 = some (ZP, none) :=
  rfl

theorem v020020101 : readBoardAux P2 7 (⟨N0, N2, N0, N0, N2, N0, N1, N0, N1⟩ : Grid) P2 = some (ZP, some M21) :=
  readBoardAux_step P2 6 (⟨N0, N2, N0, N0, N2, N0, N1, N0, N1⟩ : Grid) P2 [M00, M02, M10, M12, M21] rfl rfl
    (collectScores_cons v220020101 (collectScores_cons v022020101 (collectScores_cons v020220101 (collectScores_cons v020022101 (collectScores_cons t020020121 collectScores_nil))))) rfl

theorem v020020100 : readBoardAux P2 8 (⟨N0, N2, N0, N0, N2, N0, N1, N0, N0⟩ : Grid) P1 = some (Z0, some M21) :=
  readBoardAux_step P2 7 (⟨N0, N2, N0, N0, N2, N0, N1, N0, N0⟩ : Grid) P1 [M00, M02, M10, M12, M21, M22] rfl rfl
    (collectScores_cons v120020100 (collectScores_cons v021020100 (collectScores_cons v020120100 (collectScores_cons v020021100 (collectScores_cons v020020110 (collectScores_cons v020020101 collectScores_nil)))))) rfl

theorem v020002112 : readBoardAux P2 6 (⟨N0, N2, N0, N0, N0, N2, N1, N1, N2⟩ : Grid) P1 = some (ZP, some M00) :=
  readBoardAux_step P2 5 (⟨N0, N2, N0, N0, N0, N2, N1, N1, N2⟩ : Grid) P1 [M00, M02, M10, M11] rfl rfl
    (collectScores_cons v120002112 (collectScores_cons v021002112 (collectScores_cons v020102112 (collectScores_cons v020012112 collectScores_nil)))) rfl

theorem v020002110 : readBoardAux P2 7 (⟨N0, N2, N0, N0, N0, N2, N1, N1, N0⟩ : Grid) P2 = some (ZP, some M22) :=
  readBoardAux_step P2 6 (⟨N0, N2, N0, N0, N0, N2, N1, N1, N0⟩ : Grid) P2 [M00, M02, M10, M11, M22] rfl rfl
    (collectScores_cons v220002110 (collectScores_cons v022002110 (collectScores_cons v020202110 (collectScores_cons v020022110 (collectScores_cons v020002112 collectScores_nil))))) rfl

theorem v020002121 : readBoardAux P2 6 (⟨N0, N2, N0, N0, N0, N2, N1, N2, N1⟩ : Grid) P1 = some (ZM, some M11) :=
  readBoardAux_step P2 5 (⟨N0, N2, N0, N0, N0, N2, N1, N2, N1⟩ : Grid) P1 [M00, M02, M10, M11] rfl rfl
    (collectScores_cons v120002121 (collectScores_cons v021002121 (collectScores_cons v020102121 (collectScores_cons v020012121 collectScores_nil)))) rfl

theorem v020002101 : readBoardAux P2 7 (⟨N0, N2, N0, N0, N0, N2, N1, N0, N1⟩ : Grid) P2 = some (ZM, some M00) :=
  readBoardAux_step P2 6 (⟨N0, N2, N0, N0, N0, N2, N1, N0, N1⟩ : Grid) P2 [M00, M02, M10, M11, M21] rfl rfl
    (collectScores_cons v220002101 (collectScores_cons v022002101 (collectScores_cons v020202101 (collectScores_cons v020022101 (collectScores_cons v020002121 collectScores_nil))))) rfl

theorem v020002100 : readBoardAux P2 8 (⟨N0, N2, N0, N0, N0, N2, N1, N0, N0⟩ : Grid) P1 = some (ZM, some M00) :=
  readBoardAux_step P2 7 (⟨N0, N2, N0, N0, N0, N2, N1, N0, N0⟩ : Grid) P1 [M00, M02, M10, M11, M21, M22] rfl rfl
    (collectScores_cons v120002100 (collectScores_cons v021002100 (collectScores_cons v020102100 (collectScores_cons v020012100 (collectScores_cons v020002110 (collectScores_cons v020002101 collectScores_nil)))))) rfl

theorem v020000121 : readBoardAux P2 7 (⟨N0, N2, N0, N0, N0, N0, N1, N2, N1⟩ : Grid) P2 = some (ZP, some M00) :=
  readBoardAux_step P2 6 (⟨N0, N2, N0, N0, N0, N0, N1, N2, N1⟩ : Grid) P2 [M00, M02, M10, M11, M12] rfl rfl
    (collectScores_cons v220000121 (collectScores_cons v022000121 (collectScores_cons v020200121 (collectScores_cons t020020121 (collectScores_cons v020002121 collectScores_nil))))) rfl

theorem v020000120 : readBoardAux P2 8 (⟨N0, N2, N0, N0, N0, N0, N1, N2, N0⟩ : Grid) P1 = some (ZM, some M11) :=
  readBoardAux_step P2 7 (⟨N0, N2, N0, N0, N0, N0, N1, N2, N0⟩ : Grid) P1 [M00, M02, M10, M11, M12, M22] rfl rfl
    (collectScores_cons v120000120 (collectScores_cons v021000120 (collectScores_cons v020100120 (collectScores_cons v020010120 (collectScores_cons v020001120 (collectScores_cons v020000121 collectScores_nil)))))) rfl

theorem v020000112 : readBoardAux P2 7 (⟨N0, N2, N0, N0, N0, N0, N1, N1, N2⟩ : Grid) P2 = some (ZP, some M00) :=
  readBoardAux_step P2 6 (⟨N0, N2, N0, N0, N0, N0, N1, N1, N2⟩ : Grid) P2 [M00, M02, M10, M11, M12] rfl rfl
    (collectScores_cons v220000112 (collectScores_cons v022000112 (collectScores_cons v020200112 (collectScores_cons v020020112 (collectScores_cons v020002112 collectScores_nil))))) rfl

theorem v020000102 : readBoardAux P2 8 (⟨N0, N2, N0, N0, N0, N0, N1, N0, N2⟩ : Grid) P1 = some (Z0, some M00) :=
  readBoardAux_step P2 7 (⟨N0, N2, N0, N0, N0, N0, N1, N0, N2⟩ : Grid) P1 [M00, M02, M10, M11, M12, M21] rfl rfl
    (collectScores_cons v120000102 (collectScores_cons v021000102 (collectScores_cons v020100102 (collectScores_cons v020010102 (collectScores_cons v020001102 (collectScores_cons v020000112 collectScores_nil)))))) rfl

theorem v020000100 : readBoardAux P2 9 (⟨N0, N2, N0, N0, N0, N0, N1, N0, N0⟩ : Grid) P2 = some (ZP, some M00) :=
  readBoardAux_step P2 8 (⟨N0, N2, N0, N0, N0, N0, N1, N0, N0⟩ : Grid) P2 [M00, M02, M10, M11, M12, M21, M22] rfl rfl
    (collectScores_cons v220000100 (collectScores_cons v022000100 (collectScores_cons v020200100 (collectScores_cons v020020100 (collectScores_cons v020002100 (collectScores_cons v020000120 (collectScores_cons v020000102 collectScores_nil))))))) rfl

theorem v022200011 : readBoardAux P2 6 (⟨N0, N2, N2, N2, N0, N0, N0, N1, N1⟩ : Grid) P1 = some (ZM, some M00) :=
  readBoardAux_step P2 5 (⟨N0, N2, N2, N2, N0, N0, N0, N1, N1⟩ : Grid) P1 [M00, M11, M12, M20] rfl rfl
    (collectScores_cons v122200011 (collectScores_cons v022210011 (collectScores_cons v022201011 (collectScores_cons t022200111 collectScores_nil)))) rfl

theorem v022020011 : readBoardAux P2 6 (⟨N0, N2, N2, N0, N2, N0, N0, N1, N1⟩ : Grid) P1 = some (ZM, some M20) :=
  readBoardAux_step P2 5 (⟨N0, N2, N2, N0, N2, N0, N0, N1, N1⟩ : Grid) P1 [M00, M10, M12, M20] rfl rfl
    (collectScores_cons v122020011 (collectScores_cons v022120011 (collectScores_cons v022021011 (collectScores_cons t022020111 collectScores_nil)))) rfl

theorem v022002011 : readBoardAux P2 6 (⟨N0, N2, N2, N0, N0, N2, N0, N1, N1⟩ : Grid) P1 = some (ZM, some M00) :=
  readBoardAux_step P2 5 (⟨N0, N2, N2, N0, N0, N2, N0, N1, N1⟩ : Grid) P1 [M00, M10, M11, M20] rfl rfl
    (collectScores_cons v122002011 (collectScores_cons v022102011 (collectScores_cons v022012011 (collectScores_cons t022002111 collectScores_nil)))) rfl

theorem v022000211 : readBoardAux P2 6 (⟨N0, N2, N2, N0, N0, N0, N2, N1, N1⟩ : Grid) P1 = some (ZP, some M00) :=
  readBoardAux_step P2 5 (⟨N0, N2, N2, N0, N0, N0, N2, N1, N1⟩ : Grid) P1 [M00, M10, M11, M12] rfl rfl
    (collectScores_cons v122000211 (collectScores_cons v022100211 (collectScores_cons v022010211 (collectScores_cons v022001211 collectScores_nil)))) rfl

theorem v022000011 : readBoardAux P2 7 (⟨N0, N2, N2, N0, N0, N0, N0, N1, N1⟩ : Grid) P2 = some (ZP, some M00) :=
  readBoardAux_step P2 6 (⟨N0, N2, N2, N0, N0, N0, N0, N1, N1⟩ : Grid) P2 [M00, M10, M11, M12, M20] rfl rfl
    (collectScores_cons t222000011 (collectScores_cons v022200011 (collectScores_cons v022020011 (collectScores_cons v022002011 (collectScores_cons v022000211 collectScores_nil))))) rfl

theorem v022000010 : readBoardAux P2 8 (⟨N0, N2, N2, N0, N0, N0, N0, N1, N0⟩ : Grid) P1 = some (Z0, some M00) :=
  readBoardAux_step P2 7 (⟨N0, N2, N2, N0, N0, N0, N0, N1, N0⟩ : Grid) P1 [M00, M10, M11, M12, M20, M22] rfl rfl
    (collectScores_cons v122000010 (collectScores_cons v022100010 (collectScores_cons v022010010 (collectScores_cons v022001010 (collectScores_cons v022000110 (collectScores_cons v022000011 collectScores_nil)))))) rfl

theorem v020220011 : readBoardAux P2 6 (⟨N0, N2, N0, N2, N2, N0, N0, N1, N1⟩ : Grid) P1 = some (ZM, some M12) :=
  readBoardAux_step P2 5 (⟨N0, N2, N0, N2, N2, N0, N0, N1, N1⟩ : Grid) P1 [M00, M02, M12, M20] rfl rfl
    (collectScores_cons v120220011 (collectScores_cons v021220011 (collectScores_cons v020221011 (collectScores_cons t020220111 collectScores_nil)))) rfl

theorem v020202011 : readBoardAux P2 6 (⟨N0, N2, N0, N2, N0, N2, N0, N1, N1⟩ : Grid) P1 = some (ZM, some M11) :=
  readBoardAux_step P2 5 (⟨N0, N2, N0, N2, N0, N2, N0, N1, N1⟩ : Grid) P1 [M00, M02, M11, M20] rfl rfl
    (collectScores_cons v120202011 (collectScores_cons v021202011 (collectScores_cons v020212011 (collectScores_cons t020202111 collectScores_nil)))) rfl

theorem v020200211 : readBoardAux P2 6 (⟨N0, N2, N0, N2, N0, N0, N2, N1, N1⟩ : Grid) P1 = some (ZP, some M00) :=
  readBoardAux_step P2 5 (⟨N0, N2, N0, N2, N0, N0, N2, N1, N1⟩ : Grid) P1 [M00, M02, M11, M12] rfl rfl
    (collectScores_cons v120200211 (collectScores_cons v021200211 (collectScores_cons v020210211 (collectScores_cons v020201211 collectScores_nil)))) rfl

theorem v020200011 : readBoardAux P2 7 (⟨N0, N2, N0, N2, N0, N0, N0, N1, N1⟩ : Grid) P2 = some (ZP, some M20) :=
  readBoardAux_step P2 6 (⟨N0, N2, N0, N2, N0, N0, N0, N1, N1⟩ : Grid) P2 [M00, M02, M11, M12, M20] rfl rfl
    (collectScores_cons v220200011 (collectScores_cons v022200011 (collectScores_cons v020220011 (collectScores_cons v020202011 (collectScores_cons v020200211 collectScores_nil))))) rfl

theorem v020200010 : readBoardAux P2 8 (⟨N0, N2, N0, N2, N0, N0, N0, N1, N0⟩ : Grid) P1 = some (Z0, some M00) :=
  readBoardAux_step P2 7 (⟨N0, N2, N0, N2, N0, N0, N0, N1, N0⟩ : Grid) P1 [M00, M02, M11, M12, M20, M22] rfl rfl
    (collectScores_cons v120200010 (collectScores_cons v021200010 (collectScores_cons v020210010 (collectScores_cons v020201010 (collectScores_cons v020200110 (collectScores_cons v020200011 collectScores_nil)))))) rfl

theorem v020022011 : readBoardAux P2 6 (⟨N0, N2, N0, N0, N2, N2, N0, N1, N1⟩ : Grid) P1 = some (ZM, some M20) :=
  readBoardAux_step P2 5 (⟨N0, N2, N0, N0, N2, N2, N0, N1, N1⟩ : Grid) P1 [M00, M02, M10, M20] rfl rfl
    (collectScores_cons v120022011 (collectScores_cons v021022011 (collectScores_cons v020122011 (collectScores_cons t020022111 collectScores_nil)))) rfl

theorem v020020211 : readBoardAux P2 6 (⟨N0, N2, N0, N0, N2, N0, N2, N1, N1⟩ : Grid) P1 = some (Z0, some M02) :=
  readBoardAux_step P2 5 (⟨N0, N2, N0, N0, N2, N0, N2, N1, N1⟩ : Grid) P1 [M00, M02, M10, M12] rfl rfl
    (collectScores_cons v120020211 (collectScores_cons v021020211 (collectScores_cons v020120211 (collectScores_cons v020021211 collectScores_nil)))) rfl

theorem v020020011 : readBoardAux P2 7 (⟨N0, N2, N0, N0, N2, N0, N0, N1, N1⟩ : Grid) P2 = some (Z0, some M20) :=
  readBoardAux_step P2 6 (⟨N0, N2, N0, N0, N2, N0, N0, N1, N1⟩ : Grid) P2 [M00, M02, M10, M12, M20] rfl rfl
    (collectScores_cons v220020011 (collectScores_cons v022020011 (collectScores_cons v020220011 (collectScores_cons v020022011 (collectScores_cons v020020211 collectScores_nil))))) rfl

theorem v020020010 : readBoardAux P2 8 (⟨N0, N2, N0, N0, N2, N0, N0, N1, N0⟩ : Grid) P1 = some (Z0, some M00) :=
  readBoardAux_step P2 7 (⟨N0, N2, N0, N0, N2, N0, N0, N1, N0⟩ : Grid) P1 [M00, M02, M10, M12, M20, M22] rfl rfl
    (collectScores_cons v120020010 (collectScores_cons v021020010 (collectScores_cons v020120010 (collectScores_cons v020021010 (collectScores_cons v020020110 (collectScores_cons v020020011 collectScores_nil)))))) rfl

theorem v020002211 : readBoardAux P2 6 (⟨N0, N2, N0, N0, N0, N2, N2, N1, N1⟩ : Grid) P1 = some (ZP, some M00) :=
  readBoardAux_step P2 5 (⟨N0, N2, N0, N0, N0, N2, N2, N1, N1⟩ : Grid) P1 [M00, M02, M10, M11] rfl rfl
    (collectScores_cons v120002211 (collectScores_cons v021002211 (collectScores_cons v020102211 (collectScores_cons v020012211 collectScores_nil)))) rfl

theorem v020002011 : readBoardAux P2 7 (⟨N0, N2, N0, N0, N0, N2, N0, N1, N1⟩ : Grid) P2 = some (ZP, some M20) :=
  readBoardAux_step P2 6 (⟨N0, N2, N0, N0, N0, N2, N0, N1, N1⟩ : Grid) P2 [M00, M02, M10, M11, M20] rfl rfl
    (collectScores_cons v220002011 (collectScores_cons v022002011 (collectScores_cons v020202011 (collectScores_cons v020022011 (collectScores_cons v020002211 collectScores_nil))))) rfl

theorem v020002010 : readBoardAux P2 8 (⟨N0, N2, N0, N0, N0, N2, N0, N1, N0⟩ : Grid) P1 = some (Z0, some M00) :=
  readBoardAux_step P2 7 (⟨N0, N2, N0, N0, N0, N2, N0, N1, N0⟩ : Grid) P1 [M00, M02, M10, M11, M20, M22] rfl rfl
    (collectScores_cons v120002010 (collectScores_cons v021002010 (collectScores_cons v020102010 (collectScores_cons v020012010 (collectScores_cons v020002110 (collectScores_cons v020002011 collectScores_nil)))))) rfl

theorem v020000211 : readBoardAux P2 7 (⟨N0, N2, N0, N0, N0, N0, N2, N1, N1⟩ : Grid) P2 = some (ZP, some M00) :=
  readBoardAux_step P2 6 (⟨N0, N2, N0, N0, N0, N0, N2, N1, N1⟩ : Grid) P2 [M00, M02, M10, M11, M12] rfl rfl
    (collectScores_cons v220000211 (collectScores_cons v022000211 (collectScores_cons v020200211 (collectScores_cons v020020211 (collectScores_cons v020002211 collectScores_nil))))) rfl

theorem v020000210 : readBoardAux P2 8 (⟨N0, N2, N0, N0, N0, N0, N2, N1, N0⟩ : Grid) P1 = some (Z0, some M00) :=
  readBoardAux_step P2 7 (⟨N0, N2, N0, N0, N0, N0, N2, N1, N0⟩ : Grid) P1 [M00, M02, M10, M11, M12, M22] rfl rfl
    (collectScores_cons v120000210 (collectScores_cons v021000210 (collectScores_cons v020100210 (collectScores_cons v020010210 (collectScores_cons v020001210 (collectScores_cons v020000211 collectScores_nil)))))) rfl

theorem v020000012 : readBoardAux P2 8 (⟨N0, N2, N0, N0, N0, N0, N0, N1, N2⟩ : Grid) P1 = some (Z0, some M00) :=
  readBoardAux_step P2 7 (⟨N0, N2, N0, N0, N0, N0, N0, N1, N2⟩ : Grid) P1 [M00, M02, M10, M11, M12, M20] rfl rfl
    (collectScores_cons v120000012 (collectScores_cons v021000012 (collectScores_cons v020100012 (collectScores_cons v020010012 (collectScores_cons v020001012 (collectScores_cons v020000112 collectScores_nil)))))) rfl

theorem v020000010 : readBoardAux P2 9 (⟨N0, N2, N0, N0, N0, N0, N0, N1, N0⟩ : Grid) P2 = some (Z0, some M00) :=
  readBoardAux_step P2 8 (⟨N0, N2, N0, N0, N0, N0, N0, N1, N0⟩ : Grid) P2 [M00, M02, M10, M11, M12, M20, M22] rfl rfl
    (collectScores_cons v220000010 (collectScores_cons v022000010 (collectScores_cons v020200010 (collectScores_cons v020020010 (collectScores_cons v020002010 (collectScores_cons v020000210 (collectScores_cons v020000012 collectScores_nil))))))) rfl

theorem v022000001 : readBoardAux P2 8 (⟨N0, N2, N2, N0, N0, N0, N0, N0, N1⟩ : Grid) P1 = some (ZP, some M00) :=
  readBoardAux_step P2 7 (⟨N0, N2, N2, N0, N0, N0, N0, N0, N1⟩ : Grid) P1 [M00, M10, M11, M12, M20, M21] rfl rfl
    (collectScores_cons v122000001 (collectScores_cons v022100001 (collectScores_cons v022010001 (collectScores_cons v022001001 (collectScores_cons v022000101 (collectScores_cons v022000011 collectScores_nil)))))) rfl

theorem v020200001 : readBoardAux P2 8 (⟨N0, N2, N0, N2, N0, N0, N0, N0, N1⟩ : Grid) P1 = some (ZM, some M02) :=
  readBoardAux_step P2 7 (⟨N0, N2, N0, N2, N0, N0, N0, N0, N1⟩ : Grid) P1 [M00, M02, M11, M12, M20, M21] rfl rfl
    (collectScores_cons v120200001 (collectScores_cons v021200001 (collectScores_cons v020210001 (collectScores_cons v020201001 (collectScores_cons v020200101 (collectScores_cons v020200011 collectScores_nil)))))) rfl

theorem v020020001 : readBoardAux P2 8 (⟨N0, N2, N0, N0, N2, N0, N0, N0, N1⟩ : Grid) P1 = some (Z0, some M21) :=
  readBoardAux_step P2 7 (⟨N0, N2, N0, N0, N2, N0, N0, N0, N1⟩ : Grid) P1 [M00, M02, M10, M12, M20, M21] rfl rfl
    (collectScores_cons v120020001 (collectScores_cons v021020001 (collectScores_cons v020120001 (collectScores_cons v020021001 (collectScores_cons v020020101 (collectScores_cons v020020011 collectScores_nil)))))) rfl

theorem v020002001 : readBoardAux P2 8 (⟨N0, N2, N0, N0, N0, N2, N0, N0, N1⟩ : Grid) P1 = some (ZM, some M20) :=
  readBoardAux_step P2 7 (⟨N0, N2, N0, N0, N0, N2, N0, N0, N1⟩ : Grid) P1 [M00, M02, M10, M11, M20, M21] rfl rfl
    (collectScores_cons v120002001 (collectScores_cons v021002001 (collectScores_cons v020102001 (collectScores_cons v020012001 (collectScores_cons v020002101 (collectScores_cons v020002011 collectScores_nil)))))) rfl

theorem v020000201 : readBoardAux P2 8 (⟨N0, N2, N0, N0, N0, N0, N2, N0, N1⟩ : Grid) P1 = some (Z0, some M02) :=
  readBoardAux_step P2 7 (⟨N0, N2, N0, N0, N0, N0, N2, N0, N1⟩ : Grid) P1 [M00, M02, M10, M11, M12, M21] rfl rfl
    (collectScores_cons v120000201 (collectScores_cons v021000201 (collectScores_cons v020100201 (collectScores_cons v020010201 (collectScores_cons v020001201 (collectScores_cons v020000211 collectScores_nil)))))) rfl

theorem v020000021 : readBoardAux P2 8 (⟨N0, N2, N0, N0, N0, N0, N0, N2, N1⟩ : Grid) P1 = some (ZM, some M11) :=
  readBoardAux_step P2 7 (⟨N0, N2, N0, N0, N0, N0, N0, N2, N1⟩ : Grid) P1 [M00, M02, M10, M11, M12, M20] rfl rfl
    (collectScores_cons v120000021 (collectScores_cons v021000021 (collectScores_cons v020100021 (collectScores_cons v020010021 (collectScores_cons v020001021 (collectScores_cons v020000121 collectScores_nil)))))) rfl

theorem v020000001 : readBoardAux P2 9 (⟨N0, N2, N0, N0, N0, N0, N0, N0, N1⟩ : Grid) P2 = some (ZP, some M02) :=
  readBoardAux_step P2 8 (⟨N0, N2, N0, N0, N0, N0, N0, N0, N1⟩ : Grid) P2 [M00, M02, M10, M11, M12, M20, M21] rfl rfl
    (collectScores_cons v220000001 (collectScores_cons v022000001 (collectScores_cons v020200001 (collectScores_cons v020020001 (collectScores_cons v020002001 (collectScores_cons v020000201 (collectScores_cons v020000021 collectScores_nil))))))) rfl

theorem v020000000 : readBoardAux P2 10 (⟨N0, N2, N0, N0, N0, N0, N0, N0, N0⟩ : Grid) P1 = some (Z0, some M00) :=
  readBoardAux_step P2 9 (⟨N0, N2, N0, N0, N0, N0, N0, N0, N0⟩ : Grid) P1 [M00, M02, M10, M11, M12, M20, M21, M22] rfl rfl
    (collectScores_cons v120000000 (collectScores_cons v021000000 (collectScores_cons v020100000 (collectScores_cons v020010000 (collectScores_cons v020001000 (collectScores_cons v020000100 (collectScores_cons v020000010 (collectScores_cons v020000001 collectScores_nil)))))))) rfl

theorem t112221200 : readBoardAux P2 4 (⟨N1, N1, N2, N2, N2, N1, N2, N0, N0⟩ : Grid) P1 = some (ZP, none) :=
  rfl

theorem t112221122 : readBoardAux P2 2 (⟨N1, N1, N2, N2, N2, N1, N1, N2, N2⟩ : Grid) P1 = some (Z0, none) :=
  rfl

theorem v112221120 : readBoardAux P2 3 (⟨N1, N1, N2, N2, N2, N1, N1, N2, N0⟩ : Grid) P2 = some (Z0, some M22) :=
  readBoardAux_step P2 2 (⟨N1, N1, N2, N2, N2, N1, N1, N2, N0⟩ : Grid) P2 [M22] rfl rfl
    (collectScores_cons t112221122 collectScores_nil) rfl

theorem t112221221 : readBoardAux P2 2 (⟨N1, N1, N2, N2, N2, N1, N2, N2, N1⟩ : Grid) P1 = some (ZP, none) :=
  rfl

theorem v112221021 : readBoardAux P2 3 (⟨N1, N1, N2, N2, N2, N1, N0, N2, N1⟩ : Grid) P2 = some (ZP, some M20) :=
  readBoardAux_step P2 2 (⟨N1, N1, N2, N2, N2, N1, N0, N2, N1⟩ : Grid) P2 [M20] rfl rfl
    (collectScores_cons t112221221 collectScores_nil) rfl

theorem v112221020 : readBoardAux P2 4 (⟨N1, N1, N2, N2, N2, N1, N0, N2, N0⟩ : Grid) P1 = some (Z0, some M20) :=
  readBoardAux_step P2 3 (⟨N1, N1, N2, N2, N2, N1, N0, N2, N0⟩ : Grid) P1 [M20, M22] rfl rfl
    (collectScores_cons v112221120 (collectScores_cons v112221021 collectScores_nil)) rfl

theorem v112221102 : readBoardAux P2 3 (⟨N1, N1, N2, N2, N2, N1, N1, N0, N2⟩ : Grid) P2 = some (Z0, some M21) :=
  readBoardAux_step P2 2 (⟨N1, N1, N2, N2, N2, N1, N1, N0, N2⟩ : Grid) P2 [M21] rfl rfl
    (collectScores_cons t112221122 collectScores_nil) rfl

theorem t112221212 : readBoardAux P2 2 (⟨N1, N1, N2, N2, N2, N1, N2, N1, N2⟩ : Grid) P1 = some (ZP, none) :=
  rfl

theorem v112221012 : readBoardAux P2 3 (⟨N1, N1, N2, N2, N2, N1, N0, N1, N2⟩ : Grid) P2 = some (ZP, some M20) :=
  readBoardAux_step P2 2 (⟨N1, N1, N2, N2, N2, N1, N0, N1, N2⟩ : Grid) P2 [M20] rfl rfl
    (collectScores_cons t112221212 collectScores_nil) rfl

theorem v112221002 : readBoardAux P2 4 (⟨N1, N1, N2, N2, N2, N1, N0, N0, N2⟩ : Grid) P1 = some (Z0, some M20) :=
  readBoardAux_step P2 3 (⟨N1, N1, N2, N2, N2, N1, N0, N0, N2⟩ : Grid) P1 [M20, M21] rfl rfl
    (collectScores_cons v112221102 (collectScores_cons v112221012 collectScores_nil)) rfl

theorem v112221000 : readBoardAux P2 5 (⟨N1, N1, N2, N2, N2, N1, N0, N0, N0⟩ : Grid) P2 = some (ZP, some M20) :=
  readBoardAux_step P2 4 (⟨N1, N1, N2, N2, N2, N1, N0, N0, N0⟩ : Grid) P2 [M20, M21, M22] rfl rfl
    (collectScores_cons t112221200 (collectScores_cons v112221020 (collectScores_cons v112221002 collectScores_nil))) rfl

theorem t112222100 : readBoardAux P2 4 (⟨N1, N1, N2, N2, N2, N2, N1, N0, N0⟩ : Grid) P1 = some (ZP, none) :=
  rfl

theorem t112222121 : readBoardAux P2 2 (⟨N1, N1, N2, N2, N2, N2, N1, N2, N1⟩ : Grid) P1 = some (ZP, none) :=
  rfl

theorem v112220121 : readBoardAux P2 3 (⟨N1, N1, N2, N2, N2, N0, N1, N2, N1⟩ : Grid) P2 = some (ZP, some M12) :=
  readBoardAux_step P2 2 (⟨N1, N1, N2, N2, N2, N0, N1, N2, N1⟩ : Grid) P2 [M12] rfl rfl
    (collectScores_cons t112222121 collectScores_nil) rfl

theorem v112220120 : readBoardAux P2 4 (⟨N1, N1, N2, N2, N2, N0, N1, N2, N0⟩ : Grid) P1 = some (Z0, some M12) :=
  readBoardAux_step P2 3 (⟨N1, N1, N2, N2, N2, N0, N1, N2, N0⟩ : Grid) P1 [M12, M22] rfl rfl
    (collectScores_cons v112221120 (collectScores_cons v112220121 collectScores_nil)) rfl

theorem t112222112 : readBoardAux P2 2 (⟨N1, N1, N2, N2, N2, N2, N1, N1, N2⟩ : Grid) P1 = some (ZP, none) :=
  rfl

theorem v112220112 : readBoardAux P2 3 (⟨N1, N1, N2, N2, N2, N0, N1, N1, N2⟩ : Grid) P2 = some (ZP, some M12) :=
  readBoardAux_step P2 2 (⟨N1, N1, N2, N2, N2, N0, N1, N1, N2⟩ : Grid) P2 [M12] rfl rfl
    (collectScores_cons t112222112 collectScores_nil) rfl

theorem v112220102 : readBoardAux P2 4 (⟨N1, N1, N2, N2, N2, N0, N1, N0, N2⟩ : Grid) P1 = some (Z0, some M12) :=
  readBoardAux_step P2 3 (⟨N1, N1, N2, N2, N2, N0, N1, N0, N2⟩ : Grid) P1 [M12, M21] rfl rfl
    (collectScores_cons v112221102 (collectScores_cons v112220112 collectScores_nil)) rfl

theorem v112220100 : readBoardAux P2 5 (⟨N1, N1, N2, N2, N2, N0, N1, N0, N0⟩ : Grid) P2 = some (ZP, some M12) :=
  readBoardAux_step P2 4 (⟨N1, N1, N2, N2, N2, N0, N1, N0, N0⟩ : Grid) P2 [M12, M21, M22] rfl rfl
    (collectScores_cons t112222100 (collectScores_cons v112220120 (collectScores_cons v112220102 collectScores_nil))) rfl

theorem t112222010 : readBoardAux P2 4 (⟨N1, N1, N2, N2, N2, N2, N0, N1, N0⟩ : Grid) P1 = some (ZP, none) :=
  rfl

theorem t112220210 : readBoardAux P2 4 (⟨N1, N1, N2, N2, N2, N0, N2, N1, N0⟩ : Grid) P1 = some (ZP, none) :=
  rfl

theorem v112220012 : readBoardAux P2 4 (⟨N1, N1, N2, N2, N2, N0, N0, N1, N2⟩ : Grid) P1 = some (ZP, some M12) :=
  readBoardAux_step P2 3 (⟨N1, N1, N2, N2, N2, N0, N0, N1, N2⟩ : Grid) P1 [M12, M20] rfl rfl
    (collectScores_cons v112221012 (collectScores_cons v112220112 collectScores_nil)) rfl

theorem v112220010 : readBoardAux P2 5 (⟨N1, N1, N2, N2, N2, N0, N0, N1, N0⟩ : Grid) P2 = some (ZP, some M12) :=
  readBoardAux_step P2 4 (⟨N1, N1, N2, N2, N2, N0, N0, N1, N0⟩ : Grid) P2 [M12, M20, M22] rfl rfl
    (collectScores_cons t112222010 (collectScores_cons t112220210 (collectScores_cons v112220012 collectScores_nil))) rfl

theorem t112222001 : readBoardAux P2 4 (⟨N1, N1, N2, N2, N2, N2, N0, N0, N1⟩ : Grid) P1 = some (ZP, none) :=
  rfl

theorem t112220201 : readBoardAux P2 4 (⟨N1, N1, N2, N2, N2, N0, N2, N0, N1⟩ : Grid) P1 = some (ZP, none) :=
  rfl

theorem v112220021 : readBoardAux P2 4 (⟨N1, N1, N2, N2, N2, N0, N0, N2, N1⟩ : Grid) P1 = some (ZP, some M12) :=
  readBoardAux_step P2 3 (⟨N1, N1, N2, N2, N2, N0, N0, N2, N1⟩ : Grid) P1 [M12, M20] rfl rfl
    (collectScores_cons v112221021 (collectScores_cons v112220121 collectScores_nil)) rfl

theorem v112220001 : readBoardAux P2 5 (⟨N1, N1, N2, N2, N2, N0, N0, N0, N1⟩ : Grid) P2 = some (ZP, some M12) :=
  readBoardAux_step P2 4 (⟨N1, N1, N2, N2, N2, N0, N0, N0, N1⟩ : Grid) P2 [M12, M20, M21] rfl rfl
    (collectScores_cons t112222001 (collectScores_cons t112220201 (collectScores_cons v112220021 collectScores_nil))) rfl

theorem v112220000 : readBoardAux P2 6 (⟨N1, N1, N2, N2, N2, N0, N0, N0, N0⟩ : Grid) P1 = some (ZP, some M12) :=
  readBoardAux_step P2 5 (⟨N1, N1, N2, N2, N2, N0, N0, N0, N0⟩ : Grid) P1 [M12, M20, M21, M22] rfl rfl
    (collectScores_cons v112221000 (collectScores_cons v112220100 (collectScores_cons v112220010 (collectScores_cons v112220001 collectScores_nil)))) rfl

theorem t112212210 : readBoardAux P2 3 (⟨N1, N1, N2, N2, N1, N2, N2, N1, N0⟩ : Grid) P2 = some (ZM, none) :=
  rfl

theorem t112212201 : readBoardAux P2 3 (⟨N1, N1, N2, N2, N1, N2, N2, N0, N1⟩ : Grid) P2 = some (ZM, none) :=
  rfl

theorem v112212200 : readBoardAux P2 4 (⟨N1, N1, N2, N2, N1, N2, N2, N0, N0⟩ : Grid) P1 = some (ZM, some M21) :=
  readBoardAux_step P2 3 (⟨N1, N1, N2, N2, N1, N2, N2, N0, N0⟩ : Grid) P1 [M21, M22] rfl rfl
    (collectScores_cons t112212210 (collectScores_cons t112212201 collectScores_nil)) rfl

theorem t112212122 : readBoardAux P2 2 (⟨N1, N1, N2, N2, N1, N2, N1, N2, N2⟩ : Grid) P1 = some (ZP, none) :=
  rfl

theorem v112212120 : readBoardAux P2 3 (⟨N1, N1, N2, N2, N1, N2, N1, N2, N0⟩ : Grid) P2 = some (ZP, some M22) :=
  readBoardAux_step P2 2 (⟨N1, N1, N2, N2, N1, N2, N1, N2, N0⟩ : Grid) P2 [M22] rfl rfl
    (collectScores_cons t112212122 collectScores_nil) rfl

theorem t112212021 : readBoardAux P2 3 (⟨N1, N1, N2, N2, N1, N2, N0, N2, N1⟩ : Grid) P2 = some (ZM, none) :=
  rfl

theorem v112212020 : readBoardAux P2 4 (⟨N1, N1, N2, N2, N1, N2, N0, N2, N0⟩ : Grid) P1 = some (ZM, some M22) :=
  readBoardAux_step P2 3 (⟨N1, N1, N2, N2, N1, N2, N0, N2, N0⟩ : Grid) P1 [M20, M22] rfl rfl
    (collectScores_cons v112212120 (collectScores_cons t112212021 collectScores_nil)) rfl

theorem t112212002 : readBoardAux P2 4 (⟨N1, N1, N2, N2, N1, N2, N0, N0, N2⟩ : Grid) P1 = some (ZP, none) :=
  rfl

theorem v112212000 : readBoardAux P2 5 (⟨N1, N1, N2, N2, N1, N2, N0, N0, N0⟩ : Grid) P2 = some (ZP, some M22) :=
  readBoardAux_step P2 4 (⟨N1, N1, N2, N2, N1, N2, N0, N0, N0⟩ : Grid) P2 [M20, M21, M22] rfl rfl
    (collectScores_cons v112212200 (collectScores_cons v112212020 (collectScores_cons t112212002 collectScores_nil))) rfl

theorem v112202121 : readBoardAux P2 3 (⟨N1, N1, N2, N2, N0, N2, N1, N2, N1⟩ : Grid) P2 = some (ZP, some M11) :=
  readBoardAux_step P2 2 (⟨N1, N1, N2, N2, N0, N2, N1, N2, N1⟩ : Grid) P2 [M11] rfl rfl
    (collectScores_cons t112222121 collectScores_nil) rfl

theorem v112202120 : readBoardAux P2 4 (⟨N1, N1, N2, N2, N0, N2, N1, N2, N0⟩ : Grid) P1 = some (ZP, some M11) :=
  readBoardAux_step P2 3 (⟨N1, N1, N2, N2, N0, N2, N1, N2, N0⟩ : Grid) P1 [M11, M22] rfl rfl
    (collectScores_cons v112212120 (collectScores_cons v112202121 collectScores_nil)) rfl

theorem t112202102 : readBoardAux P2 4 (⟨N1, N1, N2, N2, N0, N2, N1, N0, N2⟩ : Grid) P1 = some (ZP, none) :=
  rfl

theorem v112202100 : readBoardAux P2 5 (⟨N1, N1, N2, N2, N0, N2, N1, N0, N0⟩ : Grid) P2 = some (ZP, some M11) :=
  readBoardAux_step P2 4 (⟨N1, N1, N2, N2, N0, N2, N1, N0, N0⟩ : Grid) P2 [M11, M21, M22] rfl rfl
    (collectScores_cons t112222100 (collectScores_cons v112202120 (collectScores_cons t112202102 collectScores_nil))) rfl

theorem t112222211 : readBoardAux P2 2 (⟨N1, N1, N2, N2, N2, N2, N2, N1, N1⟩ : Grid) P1 = some (ZP, none) :=
  rfl

theorem v112202211 : readBoardAux P2 3 (⟨N1, N1, N2, N2, N0, N2, N2, N1, N1⟩ : Grid) P2 = some (ZP, some M11) :=
  readBoardAux_step P2 2 (⟨N1, N1, N2, N2, N0, N2, N2, N1, N1⟩ : Grid) P2 [M11] rfl rfl
    (collectScores_cons t112222211 collectScores_nil) rfl

theorem v112202210 : readBoardAux P2 4 (⟨N1, N1, N2, N2, N0, N2, N2, N1, N0⟩ : Grid) P1 = some (ZM, some M11) :=
  readBoardAux_step P2 3 (⟨N1, N1, N2, N2, N0, N2, N2, N1, N0⟩ : Grid) P1 [M11, M22] rfl rfl
    (collectScores_cons t112212210 (collectScores_cons v112202211 collectScores_nil)) rfl

theorem t112202012 : readBoardAux P2 4 (⟨N1, N1, N2, N2, N0, N2, N0, N1, N2⟩ : Grid) P1 = some (ZP, none) :=
  rfl

theorem v112202010 : readBoardAux P2 5 (⟨N1, N1, N2, N2, N0, N2, N0, N1, N0⟩ : Grid) P2 = some (ZP, some M11) :=
  readBoardAux_step P2 4 (⟨N1, N1, N2, N2, N0, N2, N0, N1, N0⟩ : Grid) P2 [M11, M20, M22] rfl rfl
    (collectScores_cons t112222010 (collectScores_cons v112202210 (collectScores_cons t112202012 collectScores_nil))) rfl

theorem v112202201 : readBoardAux P2 4 (⟨N1, N1, N2, N2, N0, N2, N2, N0, N1⟩ : Grid) P1 = some (ZM, some M11) :=
  readBoardAux_step P2 3 (⟨N1, N1, N2, N2, N0, N2, N2, N0, N1⟩ : Grid) P1 [M11, M21] rfl rfl
    (collectScores_cons t112212201 (collectScores_cons v112202211 collectScores_nil)) rfl

theorem v112202021 : readBoardAux P2 4 (⟨N1, N1, N2, N2, N0, N2, N0, N2, N1⟩ : Grid) P1 = some (ZM, some M11) :=
  readBoardAux_step P2 3 (⟨N1, N1, N2, N2, N0, N2, N0, N2, N1⟩ : Grid) P1 [M11, M20] rfl rfl
    (collectScores_cons t112212021 (collectScores_cons v112202121 collectScores_nil)) rfl

theorem v112202001 : readBoardAux P2 5 (⟨N1, N1, N2, N2, N0, N2, N0, N0, N1⟩ : Grid) P2 = some (ZP, some M11) :=
  readBoardAux_step P2 4 (⟨N1, N1, N2, N2, N0, N2, N0, N0, N1⟩ : Grid) P2 [M11, M20, M21] rfl rfl
    (collectScores_cons t112222001 (collectScores_cons v112202201 (collectScores_cons v112202021 collectScores_nil))) rfl

theorem v112202000 : readBoardAux P2 6 (⟨N1, N1, N2, N2, N0, N2, N0, N0, N0⟩ : Grid) P1 = some (ZP, some M11) :=
  readBoardAux_step P2 5 (⟨N1, N1, N2, N2, N0, N2, N0, N0, N0⟩ : Grid) P1 [M11, M20, M21, M22] rfl rfl
    (collectScores_cons v112212000 (collectScores_cons v112202100 (collectScores_cons v112202010 (collectScores_cons v112202001 collectScores_nil)))) rfl

theorem t112211222 : readBoardAux P2 2 (⟨N1, N1, N2, N2, N1, N1, N2, N2, N2⟩ : Grid) P1 = some (ZP, none) :=
  rfl

theorem v112211220 : readBoardAux P2 3 (⟨N1, N1, N2, N2, N1, N1, N2, N2, N0⟩ : Grid) P2 = some (ZP, some M22) :=
  readBoardAux_step P2 2 (⟨N1, N1, N2, N2, N1, N1, N2, N2, N0⟩ : Grid) P2 [M22] rfl rfl
    (collectScores_cons t112211222 collectScores_nil) rfl

theorem t112210221 : readBoardAux P2 3 (⟨N1, N1, N2, N2, N1, N0, N2, N2, N1⟩ : Grid) P2 = some (ZM, none) :=
  rfl

theorem v112210220 : readBoardAux P2 4 (⟨N1, N1, N2, N2, N1, N0, N2, N2, N0⟩ : Grid) P1 = some (ZM, some M22) :=
  readBoardAux_step P2 3 (⟨N1, N1, N2, N2, N1, N0, N2, N2, N0⟩ : Grid) P1 [M12, M22] rfl rfl
    (collectScores_cons v112211220 (collectScores_cons t112210221 collectScores_nil)) rfl

theorem v112211202 : readBoardAux P2 3 (⟨N1, N1, N2, N2, N1, N1, N2, N0, N2⟩ : Grid) P2 = some (ZP, some M21) :=
  readBoardAux_step P2 2 (⟨N1, N1, N2, N2, N1, N1, N2, N0, N2⟩ : Grid) P2 [M21] rfl rfl
    (collectScores_cons t112211222 collectScores_nil) rfl

theorem t112210212 : readBoardAux P2 3 (⟨N1, N1, N2, N2, N1, N0, N2, N1, N2⟩ : Grid) P2 = some (ZM, none) :=
  rfl

theorem v112210202 : readBoardAux P2 4 (⟨N1, N1, N2, N2, N1, N0, N2, N0, N2⟩ : Grid) P1 = some (ZM, some M21) :=
  readBoardAux_step P2 3 (⟨N1, N1, N2, N2, N1, N0, N2, N0, N2⟩ : Grid) P1 [M12, M21] rfl rfl
    (collectScores_cons v112211202 (collectScores_cons t112210212 collectScores_nil)) rfl

theorem v112210200 : readBoardAux P2 5 (⟨N1, N1, N2, N2, N1, N0, N2, N0, N0⟩ : Grid) P2 = some (ZM, some M12) :=
  readBoardAux_step P2 4 (⟨N1, N1, N2, N2, N1, N0, N2, N0, N0⟩ : Grid) P2 [M12, M21, M22] rfl rfl
    (collectScores_cons v112212200 (collectScores_cons v112210220 (collectScores_cons v112210202 collectScores_nil))) rfl

theorem v112201221 : readBoardAux P2 3 (⟨N1, N1, N2, N2, N0, N1, N2, N2, N1⟩ : Grid) P2 = some (ZP, some M11) :=
  readBoardAux_step P2 2 (⟨N1, N1, N2, N2, N0, N1, N2, N2, N1⟩ : Grid) P2 [M11] rfl rfl
    (collectScores_cons t112221221 collectScores_nil) rfl

theorem v112201220 : readBoardAux P2 4 (⟨N1, N1, N2, N2, N0, N1, N2, N2, N0⟩ : Grid) P1 = some (ZP, some M11) :=
  readBoardAux_step P2 3 (⟨N1, N1, N2, N2, N0, N1, N2, N2, N0⟩ : Grid) P1 [M11, M22] rfl rfl
    (collectScores_cons v112211220 (collectScores_cons v112201221 collectScores_nil)) rfl

theorem v112201212 : readBoardAux P2 3 (⟨N1, N1, N2, N2, N0, N1, N2, N1, N2⟩ : Grid) P2 = some (ZP, some M11) :=
  readBoardAux_step P2 2 (⟨N1, N1, N2, N2, N0, N1, N2, N1, N2⟩ : Grid) P2 [M11] rfl rfl
    (collectScores_cons t112221212 collectScores_nil) rfl

theorem v112201202 : readBoardAux P2 4 (⟨N1, N1, N2, N2, N0, N1, N2, N0, N2⟩ : Grid) P1 = some (ZP, some M11) :=
  readBoardAux_step P2 3 (⟨N1, N1, N2, N2, N0, N1, N2, N0, N2⟩ : Grid) P1 [M11, M21] rfl rfl
    (collectScores_cons v112211202 (collectScores_cons v112201212 collectScores_nil)) rfl

theorem v112201200 : readBoardAux P2 5 (⟨N1, N1, N2, N2, N0, N1, N2, N0, N0⟩ : Grid) P2 = some (ZP, some M11) :=
  readBoardAux_step P2 4 (⟨N1, N1, N2, N2, N0, N1, N2, N0, N0⟩ : Grid) P2 [M11, M21, M22] rfl rfl
    (collectScores_cons t112221200 (collectScores_cons v112201220 (collectScores_cons v112201202 collectScores_nil))) rfl

theorem v112200212 : readBoardAux P2 4 (⟨N1, N1, N2, N2, N0, N0, N2, N1, N2⟩ : Grid) P1 = some (ZM, some M11) :=
  readBoardAux_step P2 3 (⟨N1, N1, N2, N2, N0, N0, N2, N1, N2⟩ : Grid) P1 [M11, M12] rfl rfl
    (collectScores_cons t112210212 (collectScores_cons v112201212 collectScores_nil)) rfl

theorem v112200210 : readBoardAux P2 5 (⟨N1, N1, N2, N2, N0, N0, N2, N1, N0⟩ : Grid) P2 = some (ZP, some M11) :=
  readBoardAux_step P2 4 (⟨N1, N1, N2, N2, N0, N0, N2, N1, N0⟩ : Grid) P2 [M11, M12, M22] rfl rfl
    (collectScores_cons t112220210 (collectScores_cons v112202210 (collectScores_cons v112200212 collectScores_nil))) rfl

theorem v112200221 : readBoardAux P2 4 (⟨N1, N1, N2, N2, N0, N0, N2, N2, N1⟩ : Grid) P1 = some (ZM, some M11) :=
  readBoardAux_step P2 3 (⟨N1, N1, N2, N2, N0, N0, N2, N2, N1⟩ : Grid) P1 [M11, M12] rfl rfl
    (collectScores_cons t112210221 (collectScores_cons v112201221 collectScores_nil)) rfl

theorem v112200201 : readBoardAux P2 5 (⟨N1, N1, N2, N2, N0, N0, N2, N0, N1⟩ : Grid) P2 = some (ZP, some M11) :=
  readBoardAux_step P2 4 (⟨N1, N1, N2, N2, N0, N0, N2, N0, N1⟩ : Grid) P2 [M11, M12, M21] rfl rfl
    (collectScores_cons t112220201 (collectScores_cons v112202201 (collectScores_cons v112200221 collectScores_nil))) rfl

theorem v112200200 : readBoardAux P2 6 (⟨N1, N1, N2, N2, N0, N0, N2, N0, N0⟩ : Grid) P1 = some (ZM, some M11) :=
  readBoardAux_step P2 5 (⟨N1, N1, N2, N2, N0, N0, N2, N0, N0⟩ : Grid) P1 [M11, M12, M21, M22] rfl rfl
    (collectScores_cons v112210200 (collectScores_cons v112201200 (collectScores_cons v112200210 (collectScores_cons v112200201 collectScores_nil)))) rfl

theorem v112211022 : readBoardAux P2 3 (⟨N1, N1, N2, N2, N1, N1, N0, N2, N2⟩ : Grid) P2 = some (ZP, some M20) :=
  readBoardAux_step P2 2 (⟨N1, N1, N2, N2, N1, N1, N0, N2, N2⟩ : Grid) P2 [M20] rfl rfl
    (collectScores_cons t112211222 collectScores_nil) rfl

theorem v112210122 : readBoardAux P2 3 (⟨N1, N1, N2, N2, N1, N0, N1, N2, N2⟩ : Grid) P2 = some (ZP, some M12) :=
  readBoardAux_step P2 2 (⟨N1, N1, N2, N2, N1, N0, N1, N2, N2⟩ : Grid) P2 [M12] rfl rfl
    (collectScores_cons t112212122 collectScores_nil) rfl

theorem v112210022 : readBoardAux P2 4 (⟨N1, N1, N2, N2, N1, N0, N0, N2, N2⟩ : Grid) P1 = some (ZP, some M12) :=
  readBoardAux_step P2 3 (⟨N1, N1, N2, N2, N1, N0, N0, N2, N2⟩ : Grid) P1 [M12, M20] rfl rfl
    (collectScores_cons v112211022 (collectScores_cons v112210122 collectScores_nil)) rfl

theorem v112210020 : readBoardAux P2 5 (⟨N1, N1, N2, N2, N1, N0, N0, N2, N0⟩ : Grid) P2 = some (ZP, some M22) :=
  readBoardAux_step P2 4 (⟨N1, N1, N2, N2, N1, N0, N0, N2, N0⟩ : Grid) P2 [M12, M20, M22] rfl rfl
    (collectScores_cons v112212020 (collectScores_cons v112210220 (collectScores_cons v112210022 collectScores_nil))) rfl

theorem v112201122 : readBoardAux P2 3 (⟨N1, N1, N2, N2, N0, N1, N1, N2, N2⟩ : Grid) P2 = some (Z0, some M11) :=
  readBoardAux_step P2 2 (⟨N1, N1, N2, N2, N0, N1, N1, N2, N2⟩ : Grid) P2 [M11] rfl rfl
    (collectScores_cons t112221122 collectScores_nil) rfl

theorem v112201022 : readBoardAux P2 4 (⟨N1, N1, N2, N2, N0, N1, N0, N2, N2⟩ : Grid) P1 = some (Z0, some M20) :=
  readBoardAux_step P2 3 (⟨N1, N1, N2, N2, N0, N1, N0, N2, N2⟩ : Grid) P1 [M11, M20] rfl rfl
    (collectScores_cons v112211022 (collectScores_cons v112201122 collectScores_nil)) rfl

theorem v112201020 : readBoardAux P2 5 (⟨N1, N1, N2, N2, N0, N1, N0, N2, N0⟩ : Grid) P2 = some (ZP, some M20) :=
  readBoardAux_step P2 4 (⟨N1, N1, N2, N2, N0, N1, N0, N2, N0⟩ : Grid) P2 [M11, M20, M22] rfl rfl
    (collectScores_cons v112221020 (collectScores_cons v112201220 (collectScores_cons v112201022 collectScores_nil))) rfl

theorem v112200122 : readBoardAux P2 4 (⟨N1, N1, N2, N2, N0, N0, N1, N2, N2⟩ : Grid) P1 = some (Z0, some M12) :=
  readBoardAux_step P2 3 (⟨N1, N1, N2, N2, N0, N0, N1, N2, N2⟩ : Grid) P1 [M11, M12] rfl rfl
    (collectScores_cons v112210122 (collectScores_cons v112201122 collectScores_nil)) rfl

theorem v112200120 : readBoardAux P2 5 (⟨N1, N1, N2, N2, N0, N0, N1, N2, N0⟩ : Grid) P2 = some (ZP, some M12) :=
  readBoardAux_step P2 4 (⟨N1, N1, N2, N2, N0, N0, N1, N2, N0⟩ : Grid) P2 [M11, M12, M22] rfl rfl
    (collectScores_cons v112220120 (collectScores_cons v112202120 (collectScores_cons v112200122 collectScores_nil))) rfl

theorem v112200021 : readBoardAux P2 5 (⟨N1, N1, N2, N2, N0, N0, N0, N2, N1⟩ : Grid) P2 = some (ZP, some M11) :=
  readBoardAux_step P2 4 (⟨N1, N1, N2, N2, N0, N0, N0, N2, N1⟩ : Grid) P2 [M11, M12, M20] rfl rfl
    (collectScores_cons v112220021 (collectScores_cons v112202021 (collectScores_cons v112200221 collectScores_nil))) rfl

theorem v112200020 : readBoardAux P2 6 (⟨N1, N1, N2, N2, N0, N0, N0, N2, N0⟩ : Grid) P1 = some (ZP, some M11) :=
  readBoardAux_step P2 5 (⟨N1, N1, N2, N2, N0, N0, N0, N2, N0⟩ : Grid) P1 [M11, M12, M20, M22] rfl rfl
    (collectScores_cons v112210020 (collectScores_cons v112201020 (collectScores_cons v112200120 (collectScores_cons v112200021 collectScores_nil)))) rfl

theorem v112210002 : readBoardAux P2 5 (⟨N1, N1, N2, N2, N1, N0, N0, N0, N2⟩ : Grid) P2 = some (ZP, some M12) :=
  readBoardAux_step P2 4 (⟨N1, N1, N2, N2, N1, N0, N0, N0, N2⟩ : Grid) P2 [M12, M20, M21] rfl rfl
    (collectScores_cons t112212002 (collectScores_cons v112210202 (collectScores_cons v112210022 collectScores_nil))) rfl

theorem v112201002 : readBoardAux P2 5 (⟨N1, N1, N2, N2, N0, N1, N0, N0, N2⟩ : Grid) P2 = some (ZP, some M20) :=
  readBoardAux_step P2 4 (⟨N1, N1, N2, N2, N0, N1, N0, N0, N2⟩ : Grid) P2 [M11, M20, M21] rfl rfl
    (collectScores_cons v112221002 (collectScores_cons v112201202 (collectScores_cons v112201022 collectScores_nil))) rfl

theorem v112200102 : readBoardAux P2 5 (⟨N1, N1, N2, N2, N0, N0, N1, N0, N2⟩ : Grid) P2 = some (ZP, some M12) :=
  readBoardAux_step P2 4 (⟨N1, N1, N2, N2, N0, N0, N1, N0, N2⟩ : Grid) P2 [M11, M12, M21] rfl rfl
    (collectScores_cons v112220102 (collectScores_cons t112202102 (collectScores_cons v112200122 collectScores_nil))) rfl

theorem v112200012 : readBoardAux P2 5 (⟨N1, N1, N2, N2, N0, N0, N0, N1, N2⟩ : Grid) P2 = some (ZP, some M11) :=
  readBoardAux_step P2 4 (⟨N1, N1, N2, N2, N0, N0, N0, N1, N2⟩ : Grid) P2 [M11, M12, M20] rfl rfl
    (collectScores_cons v112220012 (collectScores_cons t112202012 (collectScores_cons v112200212 collectScores_nil))) rfl

theorem v112200002 : readBoardAux P2 6 (⟨N1, N1, N2, N2, N0, N0, N0, N0, N2⟩ : Grid) P1 = some (ZP, some M11) :=
  readBoardAux_step P2 5 (⟨N1, N1, N2, N2, N0, N0, N0, N0, N2⟩ : Grid) P1 [M11, M12, M20, M21] rfl rfl
    (collectScores_cons v112210002 (collectScores_cons v112201002 (collectScores_cons v112200102 (collectScores_cons v112200012 collectScores_nil)))) rfl

theorem v112200000 : readBoardAux P2 7 (⟨N1, N1, N2, N2, N0, N0, N0, N0, N0⟩ : Grid) P2 = some (ZP, some M11) :=
  readBoardAux_step P2 6 (⟨N1, N1, N2, N2, N0, N0, N0, N0, N0⟩ : Grid) P2 [M11, M12, M20, M21, M22] rfl rfl
    (collectScores_cons v112220000 (collectScores_cons v112202000 (collectScores_cons v112200200 (collectScores_cons v112200020 (collectScores_cons v112200002 collectScores_nil))))) rfl

theorem t102212121 : readBoardAux P2 3 (⟨N1, N0, N2, N2, N1, N2, N1, N2, N1⟩ : Grid) P2 = some (ZM, none) :=
  rfl

theorem v102212120 : readBoardAux P2 4 (⟨N1, N0, N2, N2, N1, N2, N1, N2, N0⟩ : Grid) P1 = some (ZM, some M22) :=
  readBoardAux_step P2 3 (⟨N1, N0, N2, N2, N1, N2, N1, N2, N0⟩ : Grid) P1 [M01, M22] rfl rfl
    (collectScores_cons v112212120 (collectScores_cons t102212121 collectScores_nil)) rfl

theorem t102212102 : readBoardAux P2 4 (⟨N1, N0, N2, N2, N1, N2, N1, N0, N2⟩ : Grid) P1 = some (ZP, none) :=
  rfl

theorem v102212100 : readBoardAux P2 5 (⟨N1, N0, N2, N2, N1, N2, N1, N0, N0⟩ : Grid) P2 = some (ZP, some M22) :=
  readBoardAux_step P2 4 (⟨N1, N0, N2, N2, N1, N2, N1, N0, N0⟩ : Grid) P2 [M01, M21, M22] rfl rfl
    (collectScores_cons v122212100 (collectScores_cons v102212120 (collectScores_cons t102212102 collectScores_nil))) rfl

theorem t102212211 : readBoardAux P2 3 (⟨N1, N0, N2, N2, N1, N2, N2, N1, N1⟩ : Grid) P2 = some (ZM, none) :=
  rfl

theorem v102212210 : readBoardAux P2 4 (⟨N1, N0, N2, N2, N1, N2, N2, N1, N0⟩ : Grid) P1 = some (ZM, some M01) :=
  readBoardAux_step P2 3 (⟨N1, N0, N2, N2, N1, N2, N2, N1, N0⟩ : Grid) P1 [M01, M22] rfl rfl
    (collectScores_cons t112212210 (collectScores_cons t102212211 collectScores_nil)) rfl

theorem t102212012 : readBoardAux P2 4 (⟨N1, N0, N2, N2, N1, N2, N0, N1, N2⟩ : Grid) P1 = some (ZP, none) :=
  rfl

theorem v102212010 : readBoardAux P2 5 (⟨N1, N0, N2, N2, N1, N2, N0, N1, N0⟩ : Grid) P2 = some (ZP, some M22) :=
  readBoardAux_step P2 4 (⟨N1, N0, N2, N2, N1, N2, N0, N1, N0⟩ : Grid) P2 [M01, M20, M22] rfl rfl
    (collectScores_cons v122212010 (collectScores_cons v102212210 (collectScores_cons t102212012 collectScores_nil))) rfl

theorem t102212001 : readBoardAux P2 5 (⟨N1, N0, N2, N2, N1, N2, N0, N0, N1⟩ : Grid) P2 = some (ZM, none) :=
  rfl

theorem v102212000 : readBoardAux P2 6 (⟨N1, N0, N2, N2, N1, N2, N0, N0, N0⟩ : Grid) P1 = some (ZM, some M22) :=
  readBoardAux_step P2 5 (⟨N1, N0, N2, N2, N1, N2, N0, N0, N0⟩ : Grid) P1 [M01, M20, M21, M22] rfl rfl
    (collectScores_cons v112212000 (collectScores_cons v102212100 (collectScores_cons v102212010 (collectScores_cons t102212001 collectScores_nil)))) rfl

theorem t102211221 : readBoardAux P2 3 (⟨N1, N0, N2, N2, N1, N1, N2, N2, N1⟩ : Grid) P2 = some (ZM, none) :=
  rfl

theorem v102211220 : readBoardAux P2 4 (⟨N1, N0, N2, N2, N1, N1, N2, N2, N0⟩ : Grid) P1 = some (ZM, some M22) :=
  readBoardAux_step P2 3 (⟨N1, N0, N2, N2, N1, N1, N2, N2, N0⟩ : Grid) P1 [M01, M22] rfl rfl
    (collectScores_cons v112211220 (collectScores_cons t102211221 collectScores_nil)) rfl

theorem v102211212 : readBoardAux P2 3 (⟨N1, N0, N2, N2, N1, N1, N2, N1, N2⟩ : Grid) P2 = some (Z0, some M01) :=
  readBoardAux_step P2 2 (⟨N1, N0, N2, N2, N1, N1, N2, N1, N2⟩ : Grid) P2 [M01] rfl rfl
    (collectScores_cons t122211212 collectScores_nil) rfl

theorem v102211202 : readBoardAux P2 4 (⟨N1, N0, N2, N2, N1, N1, N2, N0, N2⟩ : Grid) P1 = some (Z0, some M21) :=
  readBoardAux_step P2 3 (⟨N1, N0, N2, N2, N1, N1, N2, N0, N2⟩ : Grid) P1 [M01, M21] rfl rfl
    (collectScores_cons v112211202 (collectScores_cons v102211212 collectScores_nil)) rfl

theorem v102211200 : readBoardAux P2 5 (⟨N1, N0, N2, N2, N1, N1, N2, N0, N0⟩ : Grid) P2 = some (Z0, some M22) :=
  readBoardAux_step P2 4 (⟨N1, N0, N2, N2, N1, N1, N2, N0, N0⟩ : Grid) P2 [M01, M21, M22] rfl rfl
    (collectScores_cons v122211200 (collectScores_cons v102211220 (collectScores_cons v102211202 collectScores_nil))) rfl

theorem v102210212 : readBoardAux P2 4 (⟨N1, N0, N2, N2, N1, N0, N2, N1, N2⟩ : Grid) P1 = some (ZM, some M01) :=
  readBoardAux_step P2 3 (⟨N1, N0, N2, N2, N1, N0, N2, N1, N2⟩ : Grid) P1 [M01, M12] rfl rfl
    (collectScores_cons t112210212 (collectScores_cons v102211212 collectScores_nil)) rfl

theorem v102210210 : readBoardAux P2 5 (⟨N1, N0, N2, N2, N1, N0, N2, N1, N0⟩ : Grid) P2 = some (ZM, some M01) :=
  readBoardAux_step P2 4 (⟨N1, N0, N2, N2, N1, N0, N2, N1, N0⟩ : Grid) P2 [M01, M12, M22] rfl rfl
    (collectScores_cons v122210210 (collectScores_cons v102212210 (collectScores_cons v102210212 collectScores_nil))) rfl

theorem t102210201 : readBoardAux P2 5 (⟨N1, N0, N2, N2, N1, N0, N2, N0, N1⟩ : Grid) P2 = some (ZM, none) :=
  rfl

theorem v102210200 : readBoardAux P2 6 (⟨N1, N0, N2, N2, N1, N0, N2, N0, N0⟩ : Grid) P1 = some (ZM, some M01) :=
  readBoardAux_step P2 5 (⟨N1, N0, N2, N2, N1, N0, N2, N0, N0⟩ : Grid) P1 [M01, M12, M21, M22] rfl rfl
    (collectScores_cons v112210200 (collectScores_cons v102211200 (collectScores_cons v102210210 (collectScores_cons t102210201 collectScores_nil)))) rfl

theorem v102211122 : readBoardAux P2 3 (⟨N1, N0, N2, N2, N1, N1, N1, N2, N2⟩ : Grid) P2 = some (Z0, some M01) :=
  readBoardAux_step P2 2 (⟨N1, N0, N2, N2, N1, N1, N1, N2, N2⟩ : Grid) P2 [M01] rfl rfl
    (collectScores_cons t122211122 collectScores_nil) rfl

theorem v102211022 : readBoardAux P2 4 (⟨N1, N0, N2, N2, N1, N1, N0, N2, N2⟩ : Grid) P1 = some (Z0, some M20) :=
  readBoardAux_step P2 3 (⟨N1, N0, N2, N2, N1, N1, N0, N2, N2⟩ : Grid) P1 [M01, M20] rfl rfl
    (collectScores_cons v112211022 (collectScores_cons v102211122 collectScores_nil)) rfl

theorem v102211020 : readBoardAux P2 5 (⟨N1, N0, N2, N2, N1, N1, N0, N2, N0⟩ : Grid) P2 = some (Z0, some M22) :=
  readBoardAux_step P2 4 (⟨N1, N0, N2, N2, N1, N1, N0, N2, N0⟩ : Grid) P2 [M01, M20, M22] rfl rfl
    (collectScores_cons v122211020 (collectScores_cons v102211220 (collectScores_cons v102211022 collectScores_nil))) rfl

theorem v102210122 : readBoardAux P2 4 (⟨N1, N0, N2, N2, N1, N0, N1, N2, N2⟩ : Grid) P1 = some (Z0, some M12) :=
  readBoardAux_step P2 3 (⟨N1, N0, N2, N2, N1, N0, N1, N2, N2⟩ : Grid) P1 [M01, M12] rfl rfl
    (collectScores_cons v112210122 (collectScores_cons v102211122 collectScores_nil)) rfl

theorem v102210120 : readBoardAux P2 5 (⟨N1, N0, N2, N2, N1, N0, N1, N2, N0⟩ : Grid) P2 = some (Z0, some M22) :=
  readBoardAux_step P2 4 (⟨N1, N0, N2, N2, N1, N0, N1, N2, N0⟩ : Grid) P2 [M01, M12, M22] rfl rfl
    (collectScores_cons v122210120 (collectScores_cons v102212120 (collectScores_cons v102210122 collectScores_nil))) rfl

theorem t102210021 : readBoardAux P2 5 (⟨N1, N0, N2, N2, N1, N0, N0, N2, N1⟩ : Grid) P2 = some (ZM, none) :=
  rfl

theorem v102210020 : readBoardAux P2 6 (⟨N1, N0, N2, N2, N1, N0, N0, N2, N0⟩ : Grid) P1 = some (ZM, some M22) :=
  readBoardAux_step P2 5 (⟨N1, N0, N2, N2, N1, N0, N0, N2, N0⟩ : Grid) P1 [M01, M12, M20, M22] rfl rfl
    (collectScores_cons v112210020 (collectScores_cons v102211020 (collectScores_cons v102210120 (collectScores_cons t102210021 collectScores_nil)))) rfl

theorem v102211002 : readBoardAux P2 5 (⟨N1, N0, N2, N2, N1, N1, N0, N0, N2⟩ : Grid) P2 = some (Z0, some M01) :=
  readBoardAux_step P2 4 (⟨N1, N0, N2, N2, N1, N1, N0, N0, N2⟩ : Grid) P2 [M01, M20, M21] rfl rfl
    (collectScores_cons v122211002 (collectScores_cons v102211202 (collectScores_cons v102211022 collectScores_nil))) rfl

theorem v102210102 : readBoardAux P2 5 (⟨N1, N0, N2, N2, N1, N0, N1, N0, N2⟩ : Grid) P2 = some (ZP, some M12) :=
  readBoardAux_step P2 4 (⟨N1, N0, N2, N2, N1, N0, N1, N0, N2⟩ : Grid) P2 [M01, M12, M21] rfl rfl
    (collectScores_cons v122210102 (collectScores_cons t102212102 (collectScores_cons v102210122 collectScores_nil))) rfl

theorem v102210012 : readBoardAux P2 5 (⟨N1, N0, N2, N2, N1, N0, N0, N1, N2⟩ : Grid) P2 = some (ZP, some M12) :=
  readBoardAux_step P2 4 (⟨N1, N0, N2, N2, N1, N0, N0, N1, N2⟩ : Grid) P2 [M01, M12, M20] rfl rfl
    (collectScores_cons v122210012 (collectScores_cons t102212012 (collectScores_cons v102210212 collectScores_nil))) rfl

theorem v102210002 : readBoardAux P2 6 (⟨N1, N0, N2, N2, N1, N0, N0, N0, N2⟩ : Grid) P1 = some (Z0, some M12) :=
  readBoardAux_step P2 5 (⟨N1, N0, N2, N2, N1, N0, N0, N0, N2⟩ : Grid) P1 [M01, M12, M20, M21] rfl rfl
    (collectScores_cons v112210002 (collectScores_cons v102211002 (collectScores_cons v102210102 (collectScores_cons v102210012 collectScores_nil)))) rfl

theorem v102210000 : readBoardAux P2 7 (⟨N1, N0, N2, N2, N1, N0, N0, N0, N0⟩ : Grid) P2 = some (Z0, some M22) :=
  readBoardAux_step P2 6 (⟨N1, N0, N2, N2, N1, N0, N0, N0, N0⟩ : Grid) P2 [M01, M12, M20, M21, M22] rfl rfl
    (collectScores_cons v122210000 (collectScores_cons v102212000 (collectScores_cons v102210200 (collectScores_cons v102210020 (collectScores_cons v102210002 collectScores_nil))))) rfl

theorem v102221121 : readBoardAux P2 3 (⟨N1, N0, N2, N2, N2, N1, N1, N2, N1⟩ : Grid) P2 = some (ZP, some M01) :=
  readBoardAux_step P2 2 (⟨N1, N0, N2, N2, N2, N1, N1, N2, N1⟩ : Grid) P2 [M01] rfl rfl
    (collectScores_cons t122221121 collectScores_nil) rfl

theorem v102221120 : readBoardAux P2 4 (⟨N1, N0, N2, N2, N2, N1, N1, N2, N0⟩ : Grid) P1 = some (Z0, some M01) :=
  readBoardAux_step P2 3 (⟨N1, N0, N2, N2, N2, N1, N1, N2, N0⟩ : Grid) P1 [M01, M22] rfl rfl
    (collectScores_cons v112221120 (collectScores_cons v102221121 collectScores_nil)) rfl

theorem v102221112 : readBoardAux P2 3 (⟨N1, N0, N2, N2, N2, N1, N1, N1, N2⟩ : Grid) P2 = some (Z0, some M01) :=
  readBoardAux_step P2 2 (⟨N1, N0, N2, N2, N2, N1, N1, N1, N2⟩ : Grid) P2 [M01] rfl rfl
    (collectScores_cons t122221112 collectScores_nil) rfl

theorem v102221102 : readBoardAux P2 4 (⟨N1, N0, N2, N2, N2, N1, N1, N0, N2⟩ : Grid) P1 = some (Z0, some M01) :=
  readBoardAux_step P2 3 (⟨N1, N0, N2, N2, N2, N1, N1, N0, N2⟩ : Grid) P1 [M01, M21] rfl rfl
    (collectScores_cons v112221102 (collectScores_cons v102221112 collectScores_nil)) rfl

theorem v102221100 : readBoardAux P2 5 (⟨N1, N0, N2, N2, N2, N1, N1, N0, N0⟩ : Grid) P2 = some (Z0, some M01) :=
  readBoardAux_step P2 4 (⟨N1, N0, N2, N2, N2, N1, N1, N0, N0⟩ : Grid) P2 [M01, M21, M22] rfl rfl
    (collectScores_cons v122221100 (collectScores_cons v102221120 (collectScores_cons v102221102 collectScores_nil))) rfl

theorem t102221210 : readBoardAux P2 4 (⟨N1, N0, N2, N2, N2, N1, N2, N1, N0⟩ : Grid) P1 = some (ZP, none) :=
  rfl

theorem v102221012 : readBoardAux P2 4 (⟨N1, N0, N2, N2, N2, N1, N0, N1, N2⟩ : Grid) P1 = some (Z0, some M20) :=
  readBoardAux_step P2 3 (⟨N1, N0, N2, N2, N2, N1, N0, N1, N2⟩ : Grid) P1 [M01, M20] rfl rfl
    (collectScores_cons v112221012 (collectScores_cons v102221112 collectScores_nil)) rfl

theorem v102221010 : readBoardAux P2 5 (⟨N1, N0, N2, N2, N2, N1, N0, N1, N0⟩ : Grid) P2 = some (ZP, some M20) :=
  readBoardAux_step P2 4 (⟨N1, N0, N2, N2, N2, N1, N0, N1, N0⟩ : Grid) P2 [M01, M20, M22] rfl rfl
    (collectScores_cons v122221010 (collectScores_cons t102221210 (collectScores_cons v102221012 collectScores_nil))) rfl

theorem t102221201 : readBoardAux P2 4 (⟨N1, N0, N2, N2, N2, N1, N2, N0, N1⟩ : Grid) P1 = some (ZP, none) :=
  rfl

theorem v102221021 : readBoardAux P2 4 (⟨N1, N0, N2, N2, N2, N1, N0, N2, N1⟩ : Grid) P1 = some (ZP, some M01) :=
  readBoardAux_step P2 3 (⟨N1, N0, N2, N2, N2, N1, N0, N2, N1⟩ : Grid) P1 [M01, M20] rfl rfl
    (collectScores_cons v112221021 (collectScores_cons v102221121 collectScores_nil)) rfl

theorem v102221001 : readBoardAux P2 5 (⟨N1, N0, N2, N2, N2, N1, N0, N0, N1⟩ : Grid) P2 = some (ZP, some M01) :=
  readBoardAux_step P2 4 (⟨N1, N0, N2, N2, N2, N1, N0, N0, N1⟩ : Grid) P2 [M01, M20, M21] rfl rfl
    (collectScores_cons v122221001 (collectScores_cons t102221201 (collectScores_cons v102221021 collectScores_nil))) rfl

theorem v102221000 : readBoardAux P2 6 (⟨N1, N0, N2, N2, N2, N1, N0, N0, N0⟩ : Grid) P1 = some (Z0, some M20) :=
  readBoardAux_step P2 5 (⟨N1, N0, N2, N2, N2, N1, N0, N0, N0⟩ : Grid) P1 [M01, M20, M21, M22] rfl rfl
    (collectScores_cons v112221000 (collectScores_cons v102221100 (collectScores_cons v102221010 (collectScores_cons v102221001 collectScores_nil)))) rfl

theorem v102201212 : readBoardAux P2 4 (⟨N1, N0, N2, N2, N0, N1, N2, N1, N2⟩ : Grid) P1 = some (Z0, some M11) :=
  readBoardAux_step P2 3 (⟨N1, N0, N2, N2, N0, N1, N2, N1, N2⟩ : Grid) P1 [M01, M11] rfl rfl
    (collectScores_cons v112201212 (collectScores_cons v102211212 collectScores_nil)) rfl

theorem v102201210 : readBoardAux P2 5 (⟨N1, N0, N2, N2, N0, N1, N2, N1, N0⟩ : Grid) P2 = some (ZP, some M11) :=
  readBoardAux_step P2 4 (⟨N1, N0, N2, N2, N0, N1, N2, N1, N0⟩ : Grid) P2 [M01, M11, M22] rfl rfl
    (collectScores_cons v122201210 (collectScores_cons t102221210 (collectScores_cons v102201212 collectScores_nil))) rfl

theorem v102201221 : readBoardAux P2 4 (⟨N1, N0, N2, N2, N0, N1, N2, N2, N1⟩ : Grid) P1 = some (ZM, some M11) :=
  readBoardAux_step P2 3 (⟨N1, N0, N2, N2, N0, N1, N2, N2, N1⟩ : Grid) P1 [M01, M11] rfl rfl
    (collectScores_cons v112201221 (collectScores_cons t102211221 collectScores_nil)) rfl

theorem v102201201 : readBoardAux P2 5 (⟨N1, N0, N2, N2, N0, N1, N2, N0, N1⟩ : Grid) P2 = some (ZP, some M11) :=
  readBoardAux_step P2 4 (⟨N1, N0, N2, N2, N0, N1, N2, N0, N1⟩ : Grid) P2 [M01, M11, M21] rfl rfl
    (collectScores_cons v122201201 (collectScores_cons t102221201 (collectScores_cons v102201221 collectScores_nil))) rfl

theorem v102201200 : readBoardAux P2 6 (⟨N1, N0, N2, N2, N0, N1, N2, N0, N0⟩ : Grid) P1 = some (Z0, some M11) :=
  readBoardAux_step P2 5 (⟨N1, N0, N2, N2, N0, N1, N2, N0, N0⟩ : Grid) P1 [M01, M11, M21, M22] rfl rfl
    (collectScores_cons v112201200 (collectScores_cons v102211200 (collectScores_cons v102201210 (collectScores_cons v102201201 collectScores_nil)))) rfl

theorem v102201122 : readBoardAux P2 4 (⟨N1, N0, N2, N2, N0, N1, N1, N2, N2⟩ : Grid) P1 = some (Z0, some M01) :=
  readBoardAux_step P2 3 (⟨N1, N0, N2, N2, N0, N1, N1, N2, N2⟩ : Grid) P1 [M01, M11] rfl rfl
    (collectScores_cons v112201122 (collectScores_cons v102211122 collectScores_nil)) rfl

theorem v102201120 : readBoardAux P2 5 (⟨N1, N0, N2, N2, N0, N1, N1, N2, N0⟩ : Grid) P2 = some (Z0, some M01) :=
  readBoardAux_step P2 4 (⟨N1, N0, N2, N2, N0, N1, N1, N2, N0⟩ : Grid) P2 [M01, M11, M22] rfl rfl
    (collectScores_cons v122201120 (collectScores_cons v102221120 (collectScores_cons v102201122 collectScores_nil))) rfl

theorem v102201021 : readBoardAux P2 5 (⟨N1, N0, N2, N2, N0, N1, N0, N2, N1⟩ : Grid) P2 = some (ZP, some M11) :=
  readBoardAux_step P2 4 (⟨N1, N0, N2, N2, N0, N1, N0, N2, N1⟩ : Grid) P2 [M01, M11, M20] rfl rfl
    (collectScores_cons v122201021 (collectScores_cons v102221021 (collectScores_cons v102201221 collectScores_nil))) rfl

theorem v102201020 : readBoardAux P2 6 (⟨N1, N0, N2, N2, N0, N1, N0, N2, N0⟩ : Grid) P1 = some (Z0, some M11) :=
  readBoardAux_step P2 5 (⟨N1, N0, N2, N2, N0, N1, N0, N2, N0⟩ : Grid) P1 [M01, M11, M20, M22] rfl rfl
    (collectScores_cons v112201020 (collectScores_cons v102211020 (collectScores_cons v102201120 (collectScores_cons v102201021 collectScores_nil)))) rfl

theorem v102201102 : readBoardAux P2 5 (⟨N1, N0, N2, N2, N0, N1, N1, N0, N2⟩ : Grid) P2 = some (Z0, some M01) :=
  readBoardAux_step P2 4 (⟨N1, N0, N2, N2, N0, N1, N1, N0, N2⟩ : Grid) P2 [M01, M11, M21] rfl rfl
    (collectScores_cons v122201102 (collectScores_cons v102221102 (collectScores_cons v102201122 collectScores_nil))) rfl

theorem v102201012 : readBoardAux P2 5 (⟨N1, N0, N2, N2, N0, N1, N0, N1, N2⟩ : Grid) P2 = some (Z0, some M01) :=
  readBoardAux_step P2 4 (⟨N1, N0, N2, N2, N0, N1, N0, N1, N2⟩ : Grid) P2 [M01, M11, M20] rfl rfl
    (collectScores_cons v122201012 (collectScores_cons v102221012 (collectScores_cons v102201212 collectScores_nil))) rfl

theorem v102201002 : readBoardAux P2 6 (⟨N1, N0, N2, N2, N0, N1, N0, N0, N2⟩ : Grid) P1 = some (Z0, some M11) :=
  readBoardAux_step P2 5 (⟨N1, N0, N2, N2, N0, N1, N0, N0, N2⟩ : Grid) P1 [M01, M11, M20, M21] rfl rfl
    (collectScores_cons v112201002 (collectScores_cons v102211002 (collectScores_cons v102201102 (collectScores_cons v102201012 collectScores_nil)))) rfl

theorem v102201000 : readBoardAux P2 7 (⟨N1, N0, N2, N2, N0, N1, N0, N0, N0⟩ : Grid) P2 = some (Z0, some M01) :=
  readBoardAux_step P2 6 (⟨N1, N0, N2, N2, N0, N1, N0, N0, N0⟩ : Grid) P2 [M01, M11, M20, M21, M22] rfl rfl
    (collectScores_cons v122201000 (collectScores_cons v102221000 (collectScores_cons v102201200 (collectScores_cons v102201020 (collectScores_cons v102201002 collectScores_nil))))) rfl

theorem t102222110 : readBoardAux P2 4 (⟨N1, N0, N2, N2, N2, N2, N1, N1, N0⟩ : Grid) P1 = some (ZP, none) :=
  rfl

theorem v102220112 : readBoardAux P2 4 (⟨N1, N0, N2, N2, N2, N0, N1, N1, N2⟩ : Grid) P1 = some (Z0, some M12) :=
  readBoardAux_step P2 3 (⟨N1, N0, N2, N2, N2, N0, N1, N1, N2⟩ : Grid) P1 [M01, M12] rfl rfl
    (collectScores_cons v112220112 (collectScores_cons v102221112 collectScores_nil)) rfl

theorem v102220110 : readBoardAux P2 5 (⟨N1, N0, N2, N2, N2, N0, N1, N1, N0⟩ : Grid) P2 = some (ZP, some M12) :=
  readBoardAux_step P2 4 (⟨N1, N0, N2, N2, N2, N0, N1, N1, N0⟩ : Grid) P2 [M01, M12, M22] rfl rfl
    (collectScores_cons v122220110 (collectScores_cons t102222110 (collectScores_cons v102220112 collectScores_nil))) rfl

theorem t102222101 : readBoardAux P2 4 (⟨N1, N0, N2, N2, N2, N2, N1, N0, N1⟩ : Grid) P1 = some (ZP, none) :=
  rfl

theorem v102220121 : readBoardAux P2 4 (⟨N1, N0, N2, N2, N2, N0, N1, N2, N1⟩ : Grid) P1 = some (ZP, some M01) :=
  readBoardAux_step P2 3 (⟨N1, N0, N2, N2, N2, N0, N1, N2, N1⟩ : Grid) P1 [M01, M12] rfl rfl
    (collectScores_cons v112220121 (collectScores_cons v102221121 collectScores_nil)) rfl

theorem v102220101 : readBoardAux P2 5 (⟨N1, N0, N2, N2, N2, N0, N1, N0, N1⟩ : Grid) P2 = some (ZP, some M12) :=
  readBoardAux_step P2 4 (⟨N1, N0, N2, N2, N2, N0, N1, N0, N1⟩ : Grid) P2 [M01, M12, M21] rfl rfl
    (collectScores_cons v122220101 (collectScores_cons t102222101 (collectScores_cons v102220121 collectScores_nil))) rfl

theorem v102220100 : readBoardAux P2 6 (⟨N1, N0, N2, N2, N2, N0, N1, N0, N0⟩ : Grid) P1 = some (Z0, some M12) :=
  readBoardAux_step P2 5 (⟨N1, N0, N2, N2, N2, N0, N1, N0, N0⟩ : Grid) P1 [M01, M12, M21, M22] rfl rfl
    (collectScores_cons v112220100 (collectScores_cons v102221100 (collectScores_cons v102220110 (collectScores_cons v102220101 collectScores_nil)))) rfl

theorem t102202112 : readBoardAux P2 4 (⟨N1, N0, N2, N2, N0, N2, N1, N1, N2⟩ : Grid) P1 = some (ZP, none) :=
  rfl

theorem v102202110 : readBoardAux P2 5 (⟨N1, N0, N2, N2, N0, N2, N1, N1, N0⟩ : Grid) P2 = some (ZP, some M11) :=
  readBoardAux_step P2 4 (⟨N1, N0, N2, N2, N0, N2, N1, N1, N0⟩ : Grid) P2 [M01, M11, M22] rfl rfl
    (collectScores_cons v122202110 (collectScores_cons t102222110 (collectScores_cons t102202112 collectScores_nil))) rfl

theorem v102202121 : readBoardAux P2 4 (⟨N1, N0, N2, N2, N0, N2, N1, N2, N1⟩ : Grid) P1 = some (ZM, some M11) :=
  readBoardAux_step P2 3 (⟨N1, N0, N2, N2, N0, N2, N1, N2, N1⟩ : Grid) P1 [M01, M11] rfl rfl
    (collectScores_cons v112202121 (collectScores_cons t102212121 collectScores_nil)) rfl

theorem v102202101 : readBoardAux P2 5 (⟨N1, N0, N2, N2, N0, N2, N1, N0, N1⟩ : Grid) P2 = some (ZP, some M11) :=
  readBoardAux_step P2 4 (⟨N1, N0, N2, N2, N0, N2, N1, N0, N1⟩ : Grid) P2 [M01, M11, M21] rfl rfl
    (collectScores_cons v122202101 (collectScores_cons t102222101 (collectScores_cons v102202121 collectScores_nil))) rfl

theorem v102202100 : readBoardAux P2 6 (⟨N1, N0, N2, N2, N0, N2, N1, N0, N0⟩ : Grid) P1 = some (ZP, some M01) :=
  readBoardAux_step P2 5 (⟨N1, N0, N2, N2, N0, N2, N1, N0, N0⟩ : Grid) P1 [M01, M11, M21, M22] rfl rfl
    (collectScores_cons v112202100 (collectScores_cons v102212100 (collectScores_cons v102202110 (collectScores_cons v102202101 collectScores_nil)))) rfl

theorem v102200121 : readBoardAux P2 5 (⟨N1, N0, N2, N2, N0, N0, N1, N2, N1⟩ : Grid) P2 = some (ZP, some M11) :=
  readBoardAux_step P2 4 (⟨N1, N0, N2, N2, N0, N0, N1, N2, N1⟩ : Grid) P2 [M01, M11, M12] rfl rfl
    (collectScores_cons v122200121 (collectScores_cons v102220121 (collectScores_cons v102202121 collectScores_nil))) rfl

theorem v102200120 : readBoardAux P2 6 (⟨N1, N0, N2, N2, N0, N0, N1, N2, N0⟩ : Grid) P1 = some (Z0, some M11) :=
  readBoardAux_step P2 5 (⟨N1, N0, N2, N2, N0, N0, N1, N2, N0⟩ : Grid) P1 [M01, M11, M12, M22] rfl rfl
    (collectScores_cons v112200120 (collectScores_cons v102210120 (collectScores_cons v102201120 (collectScores_cons v102200121 collectScores_nil)))) rfl

theorem v102200112 : readBoardAux P2 5 (⟨N1, N0, N2, N2, N0, N0, N1, N1, N2⟩ : Grid) P2 = some (ZP, some M12) :=
  readBoardAux_step P2 4 (⟨N1, N0, N2, N2, N0, N0, N1, N1, N2⟩ : Grid) P2 [M01, M11, M12] rfl rfl
    (collectScores_cons v122200112 (collectScores_cons v102220112 (collectScores_cons t102202112 collectScores_nil))) rfl

theorem v102200102 : readBoardAux P2 6 (⟨N1, N0, N2, N2, N0, N0, N1, N0, N2⟩ : Grid) P1 = some (Z0, some M12) :=
  readBoardAux_step P2 5 (⟨N1, N0, N2, N2, N0, N0, N1, N0, N2⟩ : Grid) P1 [M01, M11, M12, M21] rfl rfl
    (collectScores_cons v112200102 (collectScores_cons v102210102 (collectScores_cons v102201102 (collectScores_cons v102200112 collectScores_nil)))) rfl

theorem v102200100 : readBoardAux P2 7 (⟨N1, N0, N2, N2, N0, N0, N1, N0, N0⟩ : Grid) P2 = some (ZP, some M12) :=
  readBoardAux_step P2 6 (⟨N1, N0, N2, N2, N0, N0, N1, N0, N0⟩ : Grid) P2 [M01, M11, M12, M21, M22] rfl rfl
    (collectScores_cons v122200100 (collectScores_cons v102220100 (collectScores_cons v102202100 (collectScores_cons v102200120 (collectScores_cons v102200102 collectScores_nil))))) rfl

theorem t102222011 : readBoardAux P2 4 (⟨N1, N0, N2, N2, N2, N2, N0, N1, N1⟩ : Grid) P1 = some (ZP, none) :=
  rfl

theorem t102220211 : readBoardAux P2 4 (⟨N1, N0, N2, N2, N2, N0, N2, N1, N1⟩ : Grid) P1 = some (ZP, none) :=
  rfl

theorem v102220011 : readBoardAux P2 5 (⟨N1, N0, N2, N2, N2, N0, N0, N1, N1⟩ : Grid) P2 = some (ZP, some M12) :=
  readBoardAux_step P2 4 (⟨N1, N0, N2, N2, N2, N0, N0, N1, N1⟩ : Grid) P2 [M01, M12, M20] rfl rfl
    (collectScores_cons v122220011 (collectScores_cons t102222011 (collectScores_cons t102220211 collectScores_nil))) rfl

theorem v102220010 : readBoardAux P2 6 (⟨N1, N0, N2, N2, N2, N0, N0, N1, N0⟩ : Grid) P1 = some (ZP, some M01) :=
  readBoardAux_step P2 5 (⟨N1, N0, N2, N2, N2, N0, N0, N1, N0⟩ : Grid) P1 [M01, M12, M20, M22] rfl rfl
    (collectScores_cons v112220010 (collectScores_cons v102221010 (collectScores_cons v102220110 (collectScores_cons v102220011 collectScores_nil)))) rfl

theorem v102202211 : readBoardAux P2 4 (⟨N1, N0, N2, N2, N0, N2, N2, N1, N1⟩ : Grid) P1 = some (ZM, some M11) :=
  readBoardAux_step P2 3 (⟨N1, N0, N2, N2, N0, N2, N2, N1, N1⟩ : Grid) P1 [M01, M11] rfl rfl
    (collectScores_cons v112202211 (collectScores_cons t102212211 collectScores_nil)) rfl

theorem v102202011 : readBoardAux P2 5 (⟨N1, N0, N2, N2, N0, N2, N0, N1, N1⟩ : Grid) P2 = some (ZP, some M11) :=
  readBoardAux_step P2 4 (⟨N1, N0, N2, N2, N0, N2, N0, N1, N1⟩ : Grid) P2 [M01, M11, M20] rfl rfl
    (collectScores_cons v122202011 (collectScores_cons t102222011 (collectScores_cons v102202211 collectScores_nil))) rfl

theorem v102202010 : readBoardAux P2 6 (⟨N1, N0, N2, N2, N0, N2, N0, N1, N0⟩ : Grid) P1 = some (ZP, some M01) :=
  readBoardAux_step P2 5 (⟨N1, N0, N2, N2, N0, N2, N0, N1, N0⟩ : Grid) P1 [M01, M11, M20, M22] rfl rfl
    (collectScores_cons v112202010 (collectScores_cons v102212010 (collectScores_cons v102202110 (collectScores_cons v102202011 collectScores_nil)))) rfl

theorem v102200211 : readBoardAux P2 5 (⟨N1, N0, N2, N2, N0, N0, N2, N1, N1⟩ : Grid) P2 = some (ZP, some M11) :=
  readBoardAux_step P2 4 (⟨N1, N0, N2, N2, N0, N0, N2, N1, N1⟩ : Grid) P2 [M01, M11, M12] rfl rfl
    (collectScores_cons v122200211 (collectScores_cons t102220211 (collectScores_cons v102202211 collectScores_nil))) rfl

theorem v102200210 : readBoardAux P2 6 (⟨N1, N0, N2, N2, N0, N0, N2, N1, N0⟩ : Grid) P1 = some (ZM, some M11) :=
  readBoardAux_step P2 5 (⟨N1, N0, N2, N2, N0, N0, N2, N1, N0⟩ : Grid) P1 [M01, M11, M12, M22] rfl rfl
    (collectScores_cons v112200210 (collectScores_cons v102210210 (collectScores_cons v102201210 (collectScores_cons v102200211 collectScores_nil)))) rfl

theorem v102200012 : readBoardAux P2 6 (⟨N1, N0, N2, N2, N0, N0, N0, N1, N2⟩ : Grid) P1 = some (Z0, some M12) :=
  readBoardAux_step P2 5 (⟨N1, N0, N2, N2, N0, N0, N0, N1, N2⟩ : Grid) P1 [M01, M11, M12, M20] rfl rfl
    (collectScores_cons v112200012 (collectScores_cons v102210012 (collectScores_cons v102201012 (collectScores_cons v102200112 collectScores_nil)))) rfl

theorem v102200010 : readBoardAux P2 7 (⟨N1, N0, N2, N2, N0, N0, N0, N1, N0⟩ : Grid) P2 = some (ZP, some M11) :=
  readBoardAux_step P2 6 (⟨N1, N0, N2, N2, N0, N0, N0, N1, N0⟩ : Grid) P2 [M01, M11, M12, M20, M22] rfl rfl
    (collectScores_cons v122200010 (collectScores_cons v102220010 (collectScores_cons v102202010 (collectScores_cons v102200210 (collectScores_cons v102200012 collectScores_nil))))) rfl

theorem v102220001 : readBoardAux P2 6 (⟨N1, N0, N2, N2, N2, N0, N0, N0, N1⟩ : Grid) P1 = some (ZP, some M01) :=
  readBoardAux_step P2 5 (⟨N1, N0, N2, N2, N2, N0, N0, N0, N1⟩ : Grid) P1 [M01, M12, M20, M21] rfl rfl
    (collectScores_cons v112220001 (collectScores_cons v102221001 (collectScores_cons v102220101 (collectScores_cons v102220011 collectScores_nil)))) rfl

theorem v102202001 : readBoardAux P2 6 (⟨N1, N0, N2, N2, N0, N2, N0, N0, N1⟩ : Grid) P1 = some (ZM, some M11) :=
  readBoardAux_step P2 5 (⟨N1, N0, N2, N2, N0, N2, N0, N0, N1⟩ : Grid) P1 [M01, M11, M20, M21] rfl rfl
    (collectScores_cons v112202001 (collectScores_cons t102212001 (collectScores_cons v102202101 (collectScores_cons v102202011 collectScores_nil)))) rfl

theorem v102200201 : readBoardAux P2 6 (⟨N1, N0, N2, N2, N0, N0, N2, N0, N1⟩ : Grid) P1 = some (ZM, some M11) :=
  readBoardAux_step P2 5 (⟨N1, N0, N2, N2, N0, N0, N2, N0, N1⟩ : Grid) P1 [M01, M11, M12, M21] rfl rfl
    (collectScores_cons v112200201 (collectScores_cons t102210201 (collectScores_cons v102201201 (collectScores_cons v102200211 collectScores_nil)))) rfl

theorem v102200021 : readBoardAux P2 6 (⟨N1, N0, N2, N2, N0, N0, N0, N2, N1⟩ : Grid) P1 = some (ZM, some M11) :=
  readBoardAux_step P2 5 (⟨N1, N0, N2, N2, N0, N0, N0, N2, N1⟩ : Grid) P1 [M01, M11, M12, M20] rfl rfl
    (collectScores_cons v112200021 (collectScores_cons t102210021 (collectScores_cons v102201021 (collectScores_cons v102200121 collectScores_nil)))) rfl

theorem v102200001 : readBoardAux P2 7 (⟨N1, N0, N2, N2, N0, N0, N0, N0, N1⟩ : Grid) P2 = some (ZP, some M11) :=
  readBoardAux_step P2 6 (⟨N1, N0, N2, N2, N0, N0, N0, N0, N1⟩ : Grid) P2 [M01, M11, M12, M20, M21] rfl rfl
    (collectScores_cons v122200001 (collectScores_cons v102220001 (collectScores_cons v102202001 (collectScores_cons v102200201 (collectScores_cons v102200021 collectScores_nil))))) rfl

theorem v102200000 : readBoardAux P2 8 (⟨N1, N0, N2, N2, N0, N0, N0, N0, N0⟩ : Grid) P1 = some (Z0, some M11) :=
  readBoardAux_step P2 7 (⟨N1, N0, N2, N2, N0, N0, N0, N0, N0⟩ : Grid) P1 [M01, M11, M12, M20, M21, M22] rfl rfl
    (collectScores_cons v112200000 (collectScores_cons v102210000 (collectScores_cons v102201000 (collectScores_cons v102200100 (collectScores_cons v102200010 (collectScores_cons v102200001 collectScores_nil)))))) rfl

theorem t112122200 : readBoardAux P2 4 (⟨N1, N1, N2, N1, N2, N2, N2, N0, N0⟩ : Grid) P1 = some (ZP, none) :=
  rfl

theorem t112122120 : readBoardAux P2 3 (⟨N1, N1, N2, N1, N2, N2, N1, N2, N0⟩ : Grid) P2 = some (ZM, none) :=
  rfl

theorem t112122221 : readBoardAux P2 2 (⟨N1, N1, N2, N1, N2, N2, N2, N2, N1⟩ : Grid) P1 = some (ZP, none) :=
  rfl

theorem v112122021 : readBoardAux P2 3 (⟨N1, N1, N2, N1, N2, N2, N0, N2, N1⟩ : Grid) P2 = some (ZP, some M20) :=
  readBoardAux_step P2 2 (⟨N1, N1, N2, N1, N2, N2, N0, N2, N1⟩ : Grid) P2 [M20] rfl rfl
    (collectScores_cons t112122221 collectScores_nil) rfl

theorem v112122020 : readBoardAux P2 4 (⟨N1, N1, N2, N1, N2, N2, N0, N2, N0⟩ : Grid) P1 = some (ZM, some M20) :=
  readBoardAux_step P2 3 (⟨N1, N1, N2, N1, N2, N2, N0, N2, N0⟩ : Grid) P1 [M20, M22] rfl rfl
    (collectScores_cons t112122120 (collectScores_cons v112122021 collectScores_nil)) rfl

theorem t112122002 : readBoardAux P2 4 (⟨N1, N1, N2, N1, N2, N2, N0, N0, N2⟩ : Grid) P1 = some (ZP, none) :=
  rfl

theorem v112122000 : readBoardAux P2 5 (⟨N1, N1, N2, N1, N2, N2, N0, N0, N0⟩ : Grid) P2 = some (ZP, some M20) :=
  readBoardAux_step P2 4 (⟨N1, N1, N2, N1, N2, N2, N0, N0, N0⟩ : Grid) P2 [M20, M21, M22] rfl rfl
    (collectScores_cons t112122200 (collectScores_cons v112122020 (collectScores_cons t112122002 collectScores_nil))) rfl

theorem v112022121 : readBoardAux P2 3 (⟨N1, N1, N2, N0, N2, N2, N1, N2, N1⟩ : Grid) P2 = some (ZP, some M10) :=
  readBoardAux_step P2 2 (⟨N1, N1, N2, N0, N2, N2, N1, N2, N1⟩ : Grid) P2 [M10] rfl rfl
    (collectScores_cons t112222121 collectScores_nil) rfl

theorem v112022120 : readBoardAux P2 4 (⟨N1, N1, N2, N0, N2, N2, N1, N2, N0⟩ : Grid) P1 = some (ZM, some M10) :=
  readBoardAux_step P2 3 (⟨N1, N1, N2, N0, N2, N2, N1, N2, N0⟩ : Grid) P1 [M10, M22] rfl rfl
    (collectScores_cons t112122120 (collectScores_cons v112022121 collectScores_nil)) rfl

theorem t112022102 : readBoardAux P2 4 (⟨N1, N1, N2, N0, N2, N2, N1, N0, N2⟩ : Grid) P1 = some (ZP, none) :=
  rfl

theorem v112022100 : readBoardAux P2 5 (⟨N1, N1, N2, N0, N2, N2, N1, N0, N0⟩ : Grid) P2 = some (ZP, some M10) :=
  readBoardAux_step P2 4 (⟨N1, N1, N2, N0, N2, N2, N1, N0, N0⟩ : Grid) P2 [M10, M21, M22] rfl rfl
    (collectScores_cons t112222100 (collectScores_cons v112022120 (collectScores_cons t112022102 collectScores_nil))) rfl

theorem t112022210 : readBoardAux P2 4 (⟨N1, N1, N2, N0, N2, N2, N2, N1, N0⟩ : Grid) P1 = some (ZP, none) :=
  rfl

theorem t112022012 : readBoardAux P2 4 (⟨N1, N1, N2, N0, N2, N2, N0, N1, N2⟩ : Grid) P1 = some (ZP, none) :=
  rfl

theorem v112022010 : readBoardAux P2 5 (⟨N1, N1, N2, N0, N2, N2, N0, N1, N0⟩ : Grid) P2 = some (ZP, some M10) :=
  readBoardAux_step P2 4 (⟨N1, N1, N2, N0, N2, N2, N0, N1, N0⟩ : Grid) P2 [M10, M20, M22] rfl rfl
    (collectScores_cons t112222010 (collectScores_cons t112022210 (collectScores_cons t112022012 collectScores_nil))) rfl

theorem t112022201 : readBoardAux P2 4 (⟨N1, N1, N2, N0, N2, N2, N2, N0, N1⟩ : Grid) P1 = some (ZP, none) :=
  rfl

theorem v112022021 : readBoardAux P2 4 (⟨N1, N1, N2, N0, N2, N2, N0, N2, N1⟩ : Grid) P1 = some (ZP, some M10) :=
  readBoardAux_step P2 3 (⟨N1, N1, N2, N0, N2, N2, N0, N2, N1⟩ : Grid) P1 [M10, M20] rfl rfl
    (collectScores_cons v112122021 (collectScores_cons v112022121 collectScores_nil)) rfl

theorem v112022001 : readBoardAux P2 5 (⟨N1, N1, N2, N0, N2, N2, N0, N0, N1⟩ : Grid) P2 = some (ZP, some M10) :=
  readBoardAux_step P2 4 (⟨N1, N1, N2, N0, N2, N2, N0, N0, N1⟩ : Grid) P2 [M10, M20, M21] rfl rfl
    (collectScores_cons t112222001 (collectScores_cons t112022201 (collectScores_cons v112022021 collectScores_nil))) rfl

theorem v112022000 : readBoardAux P2 6 (⟨N1, N1, N2, N0, N2, N2, N0, N0, N0⟩ : Grid) P1 = some (ZP, some M10) :=
  readBoardAux_step P2 5 (⟨N1, N1, N2, N0, N2, N2, N0, N0, N0⟩ : Grid) P1 [M10, M20, M21, M22] rfl rfl
    (collectScores_cons v112122000 (collectScores_cons v112022100 (collectScores_cons v112022010 (collectScores_cons v112022001 collectScores_nil)))) rfl

theorem t112020200 : readBoardAux P2 6 (⟨N1, N1, N2, N0, N2, N0, N2, N0, N0⟩ : Grid) P1 = some (ZP, none) :=
  rfl

theorem t112120220 : readBoardAux P2 4 (⟨N1, N1, N2, N1, N2, N0, N2, N2, N0⟩ : Grid) P1 = some (ZP, none) :=
  rfl

theorem t112121222 : readBoardAux P2 2 (⟨N1, N1, N2, N1, N2, N1, N2, N2, N2⟩ : Grid) P1 = some (ZP, none) :=
  rfl

theorem v112121022 : readBoardAux P2 3 (⟨N1, N1, N2, N1, N2, N1, N0, N2, N2⟩ : Grid) P2 = some (ZP, some M20) :=
  readBoardAux_step P2 2 (⟨N1, N1, N2, N1, N2, N1, N0, N2, N2⟩ : Grid) P2 [M20] rfl rfl
    (collectScores_cons t112121222 collectScores_nil) rfl

theorem t112120122 : readBoardAux P2 3 (⟨N1, N1, N2, N1, N2, N0, N1, N2, N2⟩ : Grid) P2 = some (ZM, none) :=
  rfl

theorem v112120022 : readBoardAux P2 4 (⟨N1, N1, N2, N1, N2, N0, N0, N2, N2⟩ : Grid) P1 = some (ZM, some M20) :=
  readBoardAux_step P2 3 (⟨N1, N1, N2, N1, N2, N0, N0, N2, N2⟩ : Grid) P1 [M12, M20] rfl rfl
    (collectScores_cons v112121022 (collectScores_cons t112120122 collectScores_nil)) rfl

theorem v112120020 : readBoardAux P2 5 (⟨N1, N1, N2, N1, N2, N0, N0, N2, N0⟩ : Grid) P2 = some (ZP, some M20) :=
  readBoardAux_step P2 4 (⟨N1, N1, N2, N1, N2, N0, N0, N2, N0⟩ : Grid) P2 [M12, M20, M22] rfl rfl
    (collectScores_cons v112122020 (collectScores_cons t112120220 (collectScores_cons v112120022 collectScores_nil))) rfl

theorem t112021220 : readBoardAux P2 4 (⟨N1, N1, N2, N0, N2, N1, N2, N2, N0⟩ : Grid) P1 = some (ZP, none) :=
  rfl

theorem v112021122 : readBoardAux P2 3 (⟨N1, N1, N2, N0, N2, N1, N1, N2, N2⟩ : Grid) P2 = some (Z0, some M10) :=
  readBoardAux_step P2 2 (⟨N1, N1, N2, N0, N2, N1, N1, N2, N2⟩ : Grid) P2 [M10] rfl rfl
    (collectScores_cons t112221122 collectScores_nil) rfl

theorem v112021022 : readBoardAux P2 4 (⟨N1, N1, N2, N0, N2, N1, N0, N2, N2⟩ : Grid) P1 = some (Z0, some M20) :=
  readBoardAux_step P2 3 (⟨N1, N1, N2, N0, N2, N1, N0, N2, N2⟩ : Grid) P1 [M10, M20] rfl rfl
    (collectScores_cons v112121022 (collectScores_cons v112021122 collectScores_nil)) rfl

theorem v112021020 : readBoardAux P2 5 (⟨N1, N1, N2, N0, N2, N1, N0, N2, N0⟩ : Grid) P2 = some (ZP, some M20) :=
  readBoardAux_step P2 4 (⟨N1, N1, N2, N0, N2, N1, N0, N2, N0⟩ : Grid) P2 [M10, M20, M22] rfl rfl
    (collectScores_cons v112221020 (collectScores_cons t112021220 (collectScores_cons v112021022 collectScores_nil))) rfl

theorem v112020122 : readBoardAux P2 4 (⟨N1, N1, N2, N0, N2, N0, N1, N2, N2⟩ : Grid) P1 = some (ZM, some M10) :=
  readBoardAux_step P2 3 (⟨N1, N1, N2, N0, N2, N0, N1, N2, N2⟩ : Grid) P1 [M10, M12] rfl rfl
    (collectScores_cons t112120122 (collectScores_cons v112021122 collectScores_nil)) rfl

theorem v112020120 : readBoardAux P2 5 (⟨N1, N1, N2, N0, N2, N0, N1, N2, N0⟩ : Grid) P2 = some (Z0, some M10) :=
  readBoardAux_step P2 4 (⟨N1, N1, N2, N0, N2, N0, N1, N2, N0⟩ : Grid) P2 [M10, M12, M22] rfl rfl
    (collectScores_cons v112220120 (collectScores_cons v112022120 (collectScores_cons v112020122 collectScores_nil))) rfl

theorem t112020221 : readBoardAux P2 4 (⟨N1, N1, N2, N0, N2, N0, N2, N2, N1⟩ : Grid) P1 = some (ZP, none) :=
  rfl

theorem v112020021 : readBoardAux P2 5 (⟨N1, N1, N2, N0, N2, N0, N0, N2, N1⟩ : Grid) P2 = some (ZP, some M10) :=
  readBoardAux_step P2 4 (⟨N1, N1, N2, N0, N2, N0, N0, N2, N1⟩ : Grid) P2 [M10, M12, M20] rfl rfl
    (collectScores_cons v112220021 (collectScores_cons v112022021 (collectScores_cons t112020221 collectScores_nil))) rfl

theorem v112020020 : readBoardAux P2 6 (⟨N1, N1, N2, N0, N2, N0, N0, N2, N0⟩ : Grid) P1 = some (Z0, some M20) :=
  readBoardAux_step P2 5 (⟨N1, N1, N2, N0, N2, N0, N0, N2, N0⟩ : Grid) P1 [M10, M12, M20, M22] rfl rfl
    (collectScores_cons v112120020 (collectScores_cons v112021020 (collectScores_cons v112020120 (collectScores_cons v112020021 collectScores_nil)))) rfl

theorem t112120202 : readBoardAux P2 4 (⟨N1, N1, N2, N1, N2, N0, N2, N0, N2⟩ : Grid) P1 = some (ZP, none) :=
  rfl

theorem v112120002 : readBoardAux P2 5 (⟨N1, N1, N2, N1, N2, N0, N0, N0, N2⟩ : Grid) P2 = some (ZP, some M12) :=
  readBoardAux_step P2 4 (⟨N1, N1, N2, N1, N2, N0, N0, N0, N2⟩ : Grid) P2 [M12, M20, M21] rfl rfl
    (collectScores_cons t112122002 (collectScores_cons t112120202 (collectScores_cons v112120022 collectScores_nil))) rfl

theorem t112021202 : readBoardAux P2 4 (⟨N1, N1, N2, N0, N2, N1, N2, N0, N2⟩ : Grid) P1 = some (ZP, none) :=
  rfl

theorem v112021002 : readBoardAux P2 5 (⟨N1, N1, N2, N0, N2, N1, N0, N0, N2⟩ : Grid) P2 = some (ZP, some M20) :=
  readBoardAux_step P2 4 (⟨N1, N1, N2, N0, N2, N1, N0, N0, N2⟩ : Grid) P2 [M10, M20, M21] rfl rfl
    (collectScores_cons v112221002 (collectScores_cons t112021202 (collectScores_cons v112021022 collectScores_nil))) rfl

theorem v112020102 : readBoardAux P2 5 (⟨N1, N1, N2, N0, N2, N0, N1, N0, N2⟩ : Grid) P2 = some (ZP, some M12) :=
  readBoardAux_step P2 4 (⟨N1, N1, N2, N0, N2, N0, N1, N0, N2⟩ : Grid) P2 [M10, M12, M21] rfl rfl
    (collectScores_cons v112220102 (collectScores_cons t112022102 (collectScores_cons v112020122 collectScores_nil))) rfl

theorem t112020212 : readBoardAux P2 4 (⟨N1, N1, N2, N0, N2, N0, N2, N1, N2⟩ : Grid) P1 = some (ZP, none) :=
  rfl

theorem v112020012 : readBoardAux P2 5 (⟨N1, N1, N2, N0, N2, N0, N0, N1, N2⟩ : Grid) P2 = some (ZP, some M10) :=
  readBoardAux_step P2 4 (⟨N1, N1, N2, N0, N2, N0, N0, N1, N2⟩ : Grid) P2 [M10, M12, M20] rfl rfl
    (collectScores_cons v112220012 (collectScores_cons t112022012 (collectScores_cons t112020212 collectScores_nil))) rfl

theorem v112020002 : readBoardAux P2 6 (⟨N1, N1, N2, N0, N2, N0, N0, N0, N2⟩ : Grid) P1 = some (ZP, some M10) :=
  readBoardAux_step P2 5 (⟨N1, N1, N2, N0, N2, N0, N0, N0, N2⟩ : Grid) P1 [M10, M12, M20, M21] rfl rfl
    (collectScores_cons v112120002 (collectScores_cons v112021002 (collectScores_cons v112020102 (collectScores_cons v112020012 collectScores_nil)))) rfl

theorem v112020000 : readBoardAux P2 7 (⟨N1, N1, N2, N0, N2, N0, N0, N0, N0⟩ : Grid) P2 = some (ZP, some M10) :=
  readBoardAux_step P2 6 (⟨N1, N1, N2, N0, N2, N0, N0, N0, N0⟩ : Grid) P2 [M10, M12, M20, M21, M22] rfl rfl
    (collectScores_cons v112220000 (collectScores_cons v112022000 (collectScores_cons t112020200 (collectScores_cons v112020020 (collectScores_cons v112020002 collectScores_nil))))) rfl

theorem t102122100 : readBoardAux P2 5 (⟨N1, N0, N2, N1, N2, N2, N1, N0, N0⟩ : Grid) P2 = some (ZM, none) :=
  rfl

theorem t102122210 : readBoardAux P2 4 (⟨N1, N0, N2, N1, N2, N2, N2, N1, N0⟩ : Grid) P1 = some (ZP, none) :=
  rfl

theorem t102122012 : readBoardAux P2 4 (⟨N1, N0, N2, N1, N2, N2, N0, N1, N2⟩ : Grid) P1 = some (ZP, none) :=
  rfl

theorem v102122010 : readBoardAux P2 5 (⟨N1, N0, N2, N1, N2, N2, N0, N1, N0⟩ : Grid) P2 = some (ZP, some M20) :=
  readBoardAux_step P2 4 (⟨N1, N0, N2, N1, N2, N2, N0, N1, N0⟩ : Grid) P2 [M01, M20, M22] rfl rfl
    (collectScores_cons v122122010 (collectScores_cons t102122210 (collectScores_cons t102122012 collectScores_nil))) rfl

theorem t102122201 : readBoardAux P2 4 (⟨N1, N0, N2, N1, N2, N2, N2, N0, N1⟩ : Grid) P1 = some (ZP, none) :=
  rfl

theorem t102122121 : readBoardAux P2 3 (⟨N1, N0, N2, N1, N2, N2, N1, N2, N1⟩ : Grid) P2 = some (ZM, none) :=
  rfl

theorem v102122021 : readBoardAux P2 4 (⟨N1, N0, N2, N1, N2, N2, N0, N2, N1⟩ : Grid) P1 = some (ZM, some M20) :=
  readBoardAux_step P2 3 (⟨N1, N0, N2, N1, N2, N2, N0, N2, N1⟩ : Grid) P1 [M01, M20] rfl rfl
    (collectScores_cons v112122021 (collectScores_cons t102122121 collectScores_nil)) rfl

theorem v102122001 : readBoardAux P2 5 (⟨N1, N0, N2, N1, N2, N2, N0, N0, N1⟩ : Grid) P2 = some (ZP, some M20) :=
  readBoardAux_step P2 4 (⟨N1, N0, N2, N1, N2, N2, N0, N0, N1⟩ : Grid) P2 [M01, M20, M21] rfl rfl
    (collectScores_cons v122122001 (collectScores_cons t102122201 (collectScores_cons v102122021 collectScores_nil))) rfl

theorem v102122000 : readBoardAux P2 6 (⟨N1, N0, N2, N1, N2, N2, N0, N0, N0⟩ : Grid) P1 = some (ZM, some M20) :=
  readBoardAux_step P2 5 (⟨N1, N0, N2, N1, N2, N2, N0, N0, N0⟩ : Grid) P1 [M01, M20, M21, M22] rfl rfl
    (collectScores_cons v112122000 (collectScores_cons t102122100 (collectScores_cons v102122010 (collectScores_cons v102122001 collectScores_nil)))) rfl

theorem t102120200 : readBoardAux P2 6 (⟨N1, N0, N2, N1, N2, N0, N2, N0, N0⟩ : Grid) P1 = some (ZP, none) :=
  rfl

theorem t102121220 : readBoardAux P2 4 (⟨N1, N0, N2, N1, N2, N1, N2, N2, N0⟩ : Grid) P1 = some (ZP, none) :=
  rfl

theorem t102121122 : readBoardAux P2 3 (⟨N1, N0, N2, N1, N2, N1, N1, N2, N2⟩ : Grid) P2 = some (ZM, none) :=
  rfl

theorem v102121022 : readBoardAux P2 4 (⟨N1, N0, N2, N1, N2, N1, N0, N2, N2⟩ : Grid) P1 = some (ZM, some M20) :=
  readBoardAux_step P2 3 (⟨N1, N0, N2, N1, N2, N1, N0, N2, N2⟩ : Grid) P1 [M01, M20] rfl rfl
    (collectScores_cons v112121022 (collectScores_cons t102121122 collectScores_nil)) rfl

theorem v102121020 : readBoardAux P2 5 (⟨N1, N0, N2, N1, N2, N1, N0, N2, N0⟩ : Grid) P2 = some (ZP, some M01) :=
  readBoardAux_step P2 4 (⟨N1, N0, N2, N1, N2, N1, N0, N2, N0⟩ : Grid) P2 [M01, M20, M22] rfl rfl
    (collectScores_cons t122121020 (collectScores_cons t102121220 (collectScores_cons v102121022 collectScores_nil))) rfl

theorem t102120120 : readBoardAux P2 5 (⟨N1, N0, N2, N1, N2, N0, N1, N2, N0⟩ : Grid) P2 = some (ZM, none) :=
  rfl

theorem t102120221 : readBoardAux P2 4 (⟨N1, N0, N2, N1, N2, N0, N2, N2, N1⟩ : Grid) P1 = some (ZP, none) :=
  rfl

theorem v102120021 : readBoardAux P2 5 (⟨N1, N0, N2, N1, N2, N0, N0, N2, N1⟩ : Grid) P2 = some (ZP, some M01) :=
  readBoardAux_step P2 4 (⟨N1, N0, N2, N1, N2, N0, N0, N2, N1⟩ : Grid) P2 [M01, M12, M20] rfl rfl
    (collectScores_cons t122120021 (collectScores_cons v102122021 (collectScores_cons t102120221 collectScores_nil))) rfl

theorem v102120020 : readBoardAux P2 6 (⟨N1, N0, N2, N1, N2, N0, N0, N2, N0⟩ : Grid) P1 = some (ZM, some M20) :=
  readBoardAux_step P2 5 (⟨N1, N0, N2, N1, N2, N0, N0, N2, N0⟩ : Grid) P1 [M01, M12, M20, M22] rfl rfl
    (collectScores_cons v112120020 (collectScores_cons v102121020 (collectScores_cons t102120120 (collectScores_cons v102120021 collectScores_nil)))) rfl

theorem t102121202 : readBoardAux P2 4 (⟨N1, N0, N2, N1, N2, N1, N2, N0, N2⟩ : Grid) P1 = some (ZP, none) :=
  rfl

theorem v102121002 : readBoardAux P2 5 (⟨N1, N0, N2, N1, N2, N1, N0, N0, N2⟩ : Grid) P2 = some (ZP, some M20) :=
  readBoardAux_step P2 4 (⟨N1, N0, N2, N1, N2, N1, N0, N0, N2⟩ : Grid) P2 [M01, M20, M21] rfl rfl
    (collectScores_cons v122121002 (collectScores_cons t102121202 (collectScores_cons v102121022 collectScores_nil))) rfl

theorem t102120102 : readBoardAux P2 5 (⟨N1, N0, N2, N1, N2, N0, N1, N0, N2⟩ : Grid) P2 = some (ZM, none) :=
  rfl

theorem t102120212 : readBoardAux P2 4 (⟨N1, N0, N2, N1, N2, N0, N2, N1, N2⟩ : Grid) P1 = some (ZP, none) :=
  rfl

theorem v102120012 : readBoardAux P2 5 (⟨N1, N0, N2, N1, N2, N0, N0, N1, N2⟩ : Grid) P2 = some (ZP, some M12) :=
  readBoardAux_step P2 4 (⟨N1, N0, N2, N1, N2, N0, N0, N1, N2⟩ : Grid) P2 [M01, M12, M20] rfl rfl
    (collectScores_cons v122120012 (collectScores_cons t102122012 (collectScores_cons t102120212 collectScores_nil))) rfl

theorem v102120002 : readBoardAux P2 6 (⟨N1, N0, N2, N1, N2, N0, N0, N0, N2⟩ : Grid) P1 = some (ZM, some M20) :=
  readBoardAux_step P2 5 (⟨N1, N0, N2, N1, N2, N0, N0, N0, N2⟩ : Grid) P1 [M01, M12, M20, M21] rfl rfl
    (collectScores_cons v112120002 (collectScores_cons v102121002 (collectScores_cons t102120102 (collectScores_cons v102120012 collectScores_nil)))) rfl

theorem v102120000 : readBoardAux P2 7 (⟨N1, N0, N2, N1, N2, N0, N0, N0, N0⟩ : Grid) P2 = some (ZP, some M20) :=
  readBoardAux_step P2 6 (⟨N1, N0, N2, N1, N2, N0, N0, N0, N0⟩ : Grid) P2 [M01, M12, M20, M21, M22] rfl rfl
    (collectScores_cons v122120000 (collectScores_cons v102122000 (collectScores_cons t102120200 (collectScores_cons v102120020 (collectScores_cons v102120002 collectScores_nil))))) rfl

theorem t102021200 : readBoardAux P2 6 (⟨N1, N0, N2, N0, N2, N1, N2, N0, N0⟩ : Grid) P1 = some (ZP, none) :=
  rfl

theorem v102021122 : readBoardAux P2 4 (⟨N1, N0, N2, N0, N2, N1, N1, N2, N2⟩ : Grid) P1 = some (ZM, some M10) :=
  readBoardAux_step P2 3 (⟨N1, N0, N2, N0, N2, N1, N1, N2, N2⟩ : Grid) P1 [M01, M10] rfl rfl
    (collectScores_cons v112021122 (collectScores_cons t102121122 collectScores_nil)) rfl

theorem v102021120 : readBoardAux P2 5 (⟨N1, N0, N2, N0, N2, N1, N1, N2, N0⟩ : Grid) P2 = some (ZP, some M01) :=
  readBoardAux_step P2 4 (⟨N1, N0, N2, N0, N2, N1, N1, N2, N0⟩ : Grid) P2 [M01, M10, M22] rfl rfl
    (collectScores_cons t122021120 (collectScores_cons v102221120 (collectScores_cons v102021122 collectScores_nil))) rfl

theorem t102021221 : readBoardAux P2 4 (⟨N1, N0, N2, N0, N2, N1, N2, N2, N1⟩ : Grid) P1 = some (ZP, none) :=
  rfl

theorem v102021021 : readBoardAux P2 5 (⟨N1, N0, N2, N0, N2, N1, N0, N2, N1⟩ : Grid) P2 = some (ZP, some M01) :=
  readBoardAux_step P2 4 (⟨N1, N0, N2, N0, N2, N1, N0, N2, N1⟩ : Grid) P2 [M01, M10, M20] rfl rfl
    (collectScores_cons t122021021 (collectScores_cons v102221021 (collectScores_cons t102021221 collectScores_nil))) rfl

theorem v102021020 : readBoardAux P2 6 (⟨N1, N0, N2, N0, N2, N1, N0, N2, N0⟩ : Grid) P1 = some (ZP, some M01) :=
  readBoardAux_step P2 5 (⟨N1, N0, N2, N0, N2, N1, N0, N2, N0⟩ : Grid) P1 [M01, M10, M20, M22] rfl rfl
    (collectScores_cons v112021020 (collectScores_cons v102121020 (collectScores_cons v102021120 (collectScores_cons v102021021 collectScores_nil)))) rfl

theorem v102021102 : readBoardAux P2 5 (⟨N1, N0, N2, N0, N2, N1, N1, N0, N2⟩ : Grid) P2 = some (Z0, some M10) :=
  readBoardAux_step P2 4 (⟨N1, N0, N2, N0, N2, N1, N1, N0, N2⟩ : Grid) P2 [M01, M10, M21] rfl rfl
    (collectScores_cons v122021102 (collectScores_cons v102221102 (collectScores_cons v102021122 collectScores_nil))) rfl

theorem t102021212 : readBoardAux P2 4 (⟨N1, N0, N2, N0, N2, N1, N2, N1, N2⟩ : Grid) P1 = some (ZP, none) :=
  rfl

theorem v102021012 : readBoardAux P2 5 (⟨N1, N0, N2, N0, N2, N1, N0, N1, N2⟩ : Grid) P2 = some (ZP, some M20) :=
  readBoardAux_step P2 4 (⟨N1, N0, N2, N0, N2, N1, N0, N1, N2⟩ : Grid) P2 [M01, M10, M20] rfl rfl
    (collectScores_cons v122021012 (collectScores_cons v102221012 (collectScores_cons t102021212 collectScores_nil))) rfl

theorem v102021002 : readBoardAux P2 6 (⟨N1, N0, N2, N0, N2, N1, N0, N0, N2⟩ : Grid) P1 = some (Z0, some M20) :=
  readBoardAux_step P2 5 (⟨N1, N0, N2, N0, N2, N1, N0, N0, N2⟩ : Grid) P1 [M01, M10, M20, M21] rfl rfl
    (collectScores_cons v112021002 (collectScores_cons v102121002 (collectScores_cons v102021102 (collectScores_cons v102021012 collectScores_nil)))) rfl

theorem v102021000 : readBoardAux P2 7 (⟨N1, N0, N2, N0, N2, N1, N0, N0, N0⟩ : Grid) P2 = some (ZP, some M01) :=
  readBoardAux_step P2 6 (⟨N1, N0, N2, N0, N2, N1, N0, N0, N0⟩ : Grid) P2 [M01, M10, M20, M21, M22] rfl rfl
    (collectScores_cons v122021000 (collectScores_cons v102221000 (collectScores_cons t102021200 (collectScores_cons v102021020 (collectScores_cons v102021002 collectScores_nil))))) rfl

theorem t102022112 : readBoardAux P2 4 (⟨N1, N0, N2, N0, N2, N2, N1, N1, N2⟩ : Grid) P1 = some (ZP, none) :=
  rfl

theorem v102022110 : readBoardAux P2 5 (⟨N1, N0, N2, N0, N2, N2, N1, N1, N0⟩ : Grid) P2 = some (ZP, some M10) :=
  readBoardAux_step P2 4 (⟨N1, N0, N2, N0, N2, N2, N1, N1, N0⟩ : Grid) P2 [M01, M10, M22] rfl rfl
    (collectScores_cons v122022110 (collectScores_cons t102222110 (collectScores_cons t102022112 collectScores_nil))) rfl

theorem v102022121 : readBoardAux P2 4 (⟨N1, N0, N2, N0, N2, N2, N1, N2, N1⟩ : Grid) P1 = some (ZM, some M10) :=
  readBoardAux_step P2 3 (⟨N1, N0, N2, N0, N2, N2, N1, N2, N1⟩ : Grid) P1 [M01, M10] rfl rfl
    (collectScores_cons v112022121 (collectScores_cons t102122121 collectScores_nil)) rfl

theorem v102022101 : readBoardAux P2 5 (⟨N1, N0, N2, N0, N2, N2, N1, N0, N1⟩ : Grid) P2 = some (ZP, some M10) :=
  readBoardAux_step P2 4 (⟨N1, N0, N2, N0, N2, N2, N1, N0, N1⟩ : Grid) P2 [M01, M10, M21] rfl rfl
    (collectScores_cons v122022101 (collectScores_cons t102222101 (collectScores_cons v102022121 collectScores_nil))) rfl

theorem v102022100 : readBoardAux P2 6 (⟨N1, N0, N2, N0, N2, N2, N1, N0, N0⟩ : Grid) P1 = some (ZM, some M10) :=
  readBoardAux_step P2 5 (⟨N1, N0, N2, N0, N2, N2, N1, N0, N0⟩ : Grid) P1 [M01, M10, M21, M22] rfl rfl
    (collectScores_cons v112022100 (collectScores_cons t102122100 (collectScores_cons v102022110 (collectScores_cons v102022101 collectScores_nil)))) rfl

theorem v102020121 : readBoardAux P2 5 (⟨N1, N0, N2, N0, N2, N0, N1, N2, N1⟩ : Grid) P2 = some (ZP, some M01) :=
  readBoardAux_step P2 4 (⟨N1, N0, N2, N0, N2, N0, N1, N2, N1⟩ : Grid) P2 [M01, M10, M12] rfl rfl
    (collectScores_cons t122020121 (collectScores_cons v102220121 (collectScores_cons v102022121 collectScores_nil))) rfl

theorem v102020120 : readBoardAux P2 6 (⟨N1, N0, N2, N0, N2, N0, N1, N2, N0⟩ : Grid) P1 = some (ZM, some M10) :=
  readBoardAux_step P2 5 (⟨N1, N0, N2, N0, N2, N0, N1, N2, N0⟩ : Grid) P1 [M01, M10, M12, M22] rfl rfl
    (collectScores_cons v112020120 (collectScores_cons t102120120 (collectScores_cons v102021120 (collectScores_cons v102020121 collectScores_nil)))) rfl

theorem v102020112 : readBoardAux P2 5 (⟨N1, N0, N2, N0, N2, N0, N1, N1, N2⟩ : Grid) P2 = some (ZP, some M12) :=
  readBoardAux_step P2 4 (⟨N1, N0, N2, N0, N2, N0, N1, N1, N2⟩ : Grid) P2 [M01, M10, M12] rfl rfl
    (collectScores_cons v122020112 (collectScores_cons v102220112 (collectScores_cons t102022112 collectScores_nil))) rfl

theorem v102020102 : readBoardAux P2 6 (⟨N1, N0, N2, N0, N2, N0, N1, N0, N2⟩ : Grid) P1 = some (ZM, some M10) :=
  readBoardAux_step P2 5 (⟨N1, N0, N2, N0, N2, N0, N1, N0, N2⟩ : Grid) P1 [M01, M10, M12, M21] rfl rfl
    (collectScores_cons v112020102 (collectScores_cons t102120102 (collectScores_cons v102021102 (collectScores_cons v102020112 collectScores_nil)))) rfl

theorem v102020100 : readBoardAux P2 7 (⟨N1, N0, N2, N0, N2, N0, N1, N0, N0⟩ : Grid) P2 = some (Z0, some M10) :=
  readBoardAux_step P2 6 (⟨N1, N0, N2, N0, N2, N0, N1, N0, N0⟩ : Grid) P2 [M01, M10, M12, M21, M22] rfl rfl
    (collectScores_cons v122020100 (collectScores_cons v102220100 (collectScores_cons v102022100 (collectScores_cons v102020120 (collectScores_cons v102020102 collectScores_nil))))) rfl

theorem t102022211 : readBoardAux P2 4 (⟨N1, N0, N2, N0, N2, N2, N2, N1, N1⟩ : Grid) P1 = some (ZP, none) :=
  rfl

theorem v102022011 : readBoardAux P2 5 (⟨N1, N0, N2, N0, N2, N2, N0, N1, N1⟩ : Grid) P2 = some (ZP, some M10) :=
  readBoardAux_step P2 4 (⟨N1, N0, N2, N0, N2, N2, N0, N1, N1⟩ : Grid) P2 [M01, M10, M20] rfl rfl
    (collectScores_cons v122022011 (collectScores_cons t102222011 (collectScores_cons t102022211 collectScores_nil))) rfl

theorem v102022010 : readBoardAux P2 6 (⟨N1, N0, N2, N0, N2, N2, N0, N1, N0⟩ : Grid) P1 = some (ZP, some M01) :=
  readBoardAux_step P2 5 (⟨N1, N0, N2, N0, N2, N2, N0, N1, N0⟩ : Grid) P1 [M01, M10, M20, M22] rfl rfl
    (collectScores_cons v112022010 (collectScores_cons v102122010 (collectScores_cons v102022110 (collectScores_cons v102022011 collectScores_nil)))) rfl

theorem t102020210 : readBoardAux P2 6 (⟨N1, N0, N2, N0, N2, N0, N2, N1, N0⟩ : Grid) P1 = some (ZP, none) :=
  rfl

theorem v102020012 : readBoardAux P2 6 (⟨N1, N0, N2, N0, N2, N0, N0, N1, N2⟩ : Grid) P1 = some (ZP, some M01) :=
  readBoardAux_step P2 5 (⟨N1, N0, N2, N0, N2, N0, N0, N1, N2⟩ : Grid) P1 [M01, M10, M12, M20] rfl rfl
    (collectScores_cons v112020012 (collectScores_cons v102120012 (collectScores_cons v102021012 (collectScores_cons v102020112 collectScores_nil)))) rfl

theorem v102020010 : readBoardAux P2 7 (⟨N1, N0, N2, N0, N2, N0, N0, N1, N0⟩ : Grid) P2 = some (ZP, some M10) :=
  readBoardAux_step P2 6 (⟨N1, N0, N2, N0, N2, N0, N0, N1, N0⟩ : Grid) P2 [M01, M10, M12, M20, M22] rfl rfl
    (collectScores_cons v122020010 (collectScores_cons v102220010 (collectScores_cons v102022010 (collectScores_cons t102020210 (collectScores_cons v102020012 collectScores_nil))))) rfl

theorem v102022001 : readBoardAux P2 6 (⟨N1, N0, N2, N0, N2, N2, N0, N0, N1⟩ : Grid) P1 = some (ZP, some M01) :=
  readBoardAux_step P2 5 (⟨N1, N0, N2, N0, N2, N2, N0, N0, N1⟩ : Grid) P1 [M01, M10, M20, M21] rfl rfl
    (collectScores_cons v112022001 (collectScores_cons v102122001 (collectScores_cons v102022101 (collectScores_cons v102022011 collectScores_nil)))) rfl

theorem t102020201 : readBoardAux P2 6 (⟨N1, N0, N2, N0, N2, N0, N2, N0, N1⟩ : Grid) P1 = some (ZP, none) :=
  rfl

theorem v102020021 : readBoardAux P2 6 (⟨N1, N0, N2, N0, N2, N0, N0, N2, N1⟩ : Grid) P1 = some (ZP, some M01) :=
  readBoardAux_step P2 5 (⟨N1, N0, N2, N0, N2, N0, N0, N2, N1⟩ : Grid) P1 [M01, M10, M12, M20] rfl rfl
    (collectScores_cons v112020021 (collectScores_cons v102120021 (collectScores_cons v102021021 (collectScores_cons v102020121 collectScores_nil)))) rfl

theorem v102020001 : readBoardAux P2 7 (⟨N1, N0, N2, N0, N2, N0, N0, N0, N1⟩ : Grid) P2 = some (ZP, some M01) :=
  readBoardAux_step P2 6 (⟨N1, N0, N2, N0, N2, N0, N0, N0, N1⟩ : Grid) P2 [M01, M10, M12, M20, M21] rfl rfl
    (collectScores_cons v122020001 (collectScores_cons v102220001 (collectScores_cons v102022001 (collectScores_cons t102020201 (collectScores_cons v102020021 collectScores_nil))))) rfl

theorem v102020000 : readBoardAux P2 8 (⟨N1, N0, N2, N0, N2, N0, N0, N0, N0⟩ : Grid) P1 = some (Z0, some M20) :=
  readBoardAux_step P2 7 (⟨N1, N0, N2, N0, N2, N0, N0, N0, N0⟩ : Grid) P1 [M01, M10, M12, M20, M21, M22] rfl rfl
    (collectScores_cons v112020000 (collectScores_cons v102120000 (collectScores_cons v102021000 (collectScores_cons v102020100 (collectScores_cons v102020010 (collectScores_cons v102020001 collectScores_nil)))))) rfl

theorem t112112222 : readBoardAux P2 2 (⟨N1, N1, N2, N1, N1, N2, N2, N2, N2⟩ : Grid) P1 = some (ZP, none) :=
  rfl

theorem v112112220 : readBoardAux P2 3 (⟨N1, N1, N2, N1, N1, N2, N2, N2, N0⟩ : Grid) P2 = some (ZP, some M22) :=
  readBoardAux_step P2 2 (⟨N1, N1, N2, N1, N1, N2, N2, N2, N0⟩ : Grid) P2 [M22] rfl rfl
    (collectScores_cons t112112222 collectScores_nil) rfl

theorem v112102221 : readBoardAux P2 3 (⟨N1, N1, N2, N1, N0, N2, N2, N2, N1⟩ : Grid) P2 = some (ZP, some M11) :=
  readBoardAux_step P2 2 (⟨N1, N1, N2, N1, N0, N2, N2, N2, N1⟩ : Grid) P2 [M11] rfl rfl
    (collectScores_cons t112122221 collectScores_nil) rfl

theorem v112102220 : readBoardAux P2 4 (⟨N1, N1, N2, N1, N0, N2, N2, N2, N0⟩ : Grid) P1 = some (ZP, some M11) :=
  readBoardAux_step P2 3 (⟨N1, N1, N2, N1, N0, N2, N2, N2, N0⟩ : Grid) P1 [M11, M22] rfl rfl
    (collectScores_cons v112112220 (collectScores_cons v112102221 collectScores_nil)) rfl

theorem t112102202 : readBoardAux P2 4 (⟨N1, N1, N2, N1, N0, N2, N2, N0, N2⟩ : Grid) P1 = some (ZP, none) :=
  rfl

theorem v112102200 : readBoardAux P2 5 (⟨N1, N1, N2, N1, N0, N2, N2, N0, N0⟩ : Grid) P2 = some (ZP, some M11) :=
  readBoardAux_step P2 4 (⟨N1, N1, N2, N1, N0, N2, N2, N0, N0⟩ : Grid) P2 [M11, M21, M22] rfl rfl
    (collectScores_cons t112122200 (collectScores_cons v112102220 (collectScores_cons t112102202 collectScores_nil))) rfl

theorem t112012221 : readBoardAux P2 3 (⟨N1, N1, N2, N0, N1, N2, N2, N2, N1⟩ : Grid) P2 = some (ZM, none) :=
  rfl

theorem v112012220 : readBoardAux P2 4 (⟨N1, N1, N2, N0, N1, N2, N2, N2, N0⟩ : Grid) P1 = some (ZM, some M22) :=
  readBoardAux_step P2 3 (⟨N1, N1, N2, N0, N1, N2, N2, N2, N0⟩ : Grid) P1 [M10, M22] rfl rfl
    (collectScores_cons v112112220 (collectScores_cons t112012221 collectScores_nil)) rfl

theorem t112012202 : readBoardAux P2 4 (⟨N1, N1, N2, N0, N1, N2, N2, N0, N2⟩ : Grid) P1 = some (ZP, none) :=
  rfl

theorem v112012200 : readBoardAux P2 5 (⟨N1, N1, N2, N0, N1, N2, N2, N0, N0⟩ : Grid) P2 = some (ZP, some M22) :=
  readBoardAux_step P2 4 (⟨N1, N1, N2, N0, N1, N2, N2, N0, N0⟩ : Grid) P2 [M10, M21, M22] rfl rfl
    (collectScores_cons v112212200 (collectScores_cons v112012220 (collectScores_cons t112012202 collectScores_nil))) rfl

theorem t112002212 : readBoardAux P2 4 (⟨N1, N1, N2, N0, N0, N2, N2, N1, N2⟩ : Grid) P1 = some (ZP, none) :=
  rfl

theorem v112002210 : readBoardAux P2 5 (⟨N1, N1, N2, N0, N0, N2, N2, N1, N0⟩ : Grid) P2 = some (ZP, some M11) :=
  readBoardAux_step P2 4 (⟨N1, N1, N2, N0, N0, N2, N2, N1, N0⟩ : Grid) P2 [M10, M11, M22] rfl rfl
    (collectScores_cons v112202210 (collectScores_cons t112022210 (collectScores_cons t112002212 collectScores_nil))) rfl

theorem v112002221 : readBoardAux P2 4 (⟨N1, N1, N2, N0, N0, N2, N2, N2, N1⟩ : Grid) P1 = some (ZM, some M11) :=
  readBoardAux_step P2 3 (⟨N1, N1, N2, N0, N0, N2, N2, N2, N1⟩ : Grid) P1 [M10, M11] rfl rfl
    (collectScores_cons v112102221 (collectScores_cons t112012221 collectScores_nil)) rfl

theorem v112002201 : readBoardAux P2 5 (⟨N1, N1, N2, N0, N0, N2, N2, N0, N1⟩ : Grid) P2 = some (ZP, some M11) :=
  readBoardAux_step P2 4 (⟨N1, N1, N2, N0, N0, N2, N2, N0, N1⟩ : Grid) P2 [M10, M11, M21] rfl rfl
    (collectScores_cons v112202201 (collectScores_cons t112022201 (collectScores_cons v112002221 collectScores_nil))) rfl

theorem v112002200 : readBoardAux P2 6 (⟨N1, N1, N2, N0, N0, N2, N2, N0, N0⟩ : Grid) P1 = some (ZP, some M10) :=
  readBoardAux_step P2 5 (⟨N1, N1, N2, N0, N0, N2, N2, N0, N0⟩ : Grid) P1 [M10, M11, M21, M22] rfl rfl
    (collectScores_cons v112102200 (collectScores_cons v112012200 (collectScores_cons v112002210 (collectScores_cons v112002201 collectScores_nil)))) rfl

theorem t112102022 : readBoardAux P2 4 (⟨N1, N1, N2, N1, N0, N2, N0, N2, N2⟩ : Grid) P1 = some (ZP, none) :=
  rfl

theorem v112102020 : readBoardAux P2 5 (⟨N1, N1, N2, N1, N0, N2, N0, N2, N0⟩ : Grid) P2 = some (ZP, some M20) :=
  readBoardAux_step P2 4 (⟨N1, N1, N2, N1, N0, N2, N0, N2, N0⟩ : Grid) P2 [M11, M20, M22] rfl rfl
    (collectScores_cons v112122020 (collectScores_cons v112102220 (collectScores_cons t112102022 collectScores_nil))) rfl

theorem t112012022 : readBoardAux P2 4 (⟨N1, N1, N2, N0, N1, N2, N0, N2, N2⟩ : Grid) P1 = some (ZP, none) :=
  rfl

theorem v112012020 : readBoardAux P2 5 (⟨N1, N1, N2, N0, N1, N2, N0, N2, N0⟩ : Grid) P2 = some (ZP, some M22) :=
  readBoardAux_step P2 4 (⟨N1, N1, N2, N0, N1, N2, N0, N2, N0⟩ : Grid) P2 [M10, M20, M22] rfl rfl
    (collectScores_cons v112212020 (collectScores_cons v112012220 (collectScores_cons t112012022 collectScores_nil))) rfl

theorem t112002122 : readBoardAux P2 4 (⟨N1, N1, N2, N0, N0, N2, N1, N2, N2⟩ : Grid) P1 = some (ZP, none) :=
  rfl

theorem v112002120 : readBoardAux P2 5 (⟨N1, N1, N2, N0, N0, N2, N1, N2, N0⟩ : Grid) P2 = some (ZP, some M10) :=
  readBoardAux_step P2 4 (⟨N1, N1, N2, N0, N0, N2, N1, N2, N0⟩ : Grid) P2 [M10, M11, M22] rfl rfl
    (collectScores_cons v112202120 (collectScores_cons v112022120 (collectScores_cons t112002122 collectScores_nil))) rfl

theorem v112002021 : readBoardAux P2 5 (⟨N1, N1, N2, N0, N0, N2, N0, N2, N1⟩ : Grid) P2 = some (ZP, some M11) :=
  readBoardAux_step P2 4 (⟨N1, N1, N2, N0, N0, N2, N0, N2, N1⟩ : Grid) P2 [M10, M11, M20] rfl rfl
    (collectScores_cons v112202021 (collectScores_cons v112022021 (collectScores_cons v112002221 collectScores_nil))) rfl

theorem v112002020 : readBoardAux P2 6 (⟨N1, N1, N2, N0, N0, N2, N0, N2, N0⟩ : Grid) P1 = some (ZP, some M10) :=
  readBoardAux_step P2 5 (⟨N1, N1, N2, N0, N0, N2, N0, N2, N0⟩ : Grid) P1 [M10, M11, M20, M22] rfl rfl
    (collectScores_cons v112102020 (collectScores_cons v112012020 (collectScores_cons v112002120 (collectScores_cons v112002021 collectScores_nil)))) rfl

theorem t112002002 : readBoardAux P2 6 (⟨N1, N1, N2, N0, N0, N2, N0, N0, N2⟩ : Grid) P1 = some (ZP, none) :=
  rfl

theorem v112002000 : readBoardAux P2 7 (⟨N1, N1, N2, N0, N0, N2, N0, N0, N0⟩ : Grid) P2 = some (ZP, some M10) :=
  readBoardAux_step P2 6 (⟨N1, N1, N2, N0, N0, N2, N0, N0, N0⟩ : Grid) P2 [M10, M11, M20, M21, M22] rfl rfl
    (collectScores_cons v112202000 (collectScores_cons v112022000 (collectScores_cons v112002200 (collectScores_cons v112002020 (collectScores_cons t112002002 collectScores_nil))))) rfl

theorem t102112221 : readBoardAux P2 3 (⟨N1, N0, N2, N1, N1, N2, N2, N2, N1⟩ : Grid) P2 = some (ZM, none) :=
  rfl

theorem v102112220 : readBoardAux P2 4 (⟨N1, N0, N2, N1, N1, N2, N2, N2, N0⟩ : Grid) P1 = some (ZM, some M22) :=
  readBoardAux_step P2 3 (⟨N1, N0, N2, N1, N1, N2, N2, N2, N0⟩ : Grid) P1 [M01, M22] rfl rfl
    (collectScores_cons v112112220 (collectScores_cons t102112221 collectScores_nil)) rfl

theorem t102112202 : readBoardAux P2 4 (⟨N1, N0, N2, N1, N1, N2, N2, N0, N2⟩ : Grid) P1 = some (ZP, none) :=
  rfl

theorem v102112200 : readBoardAux P2 5 (⟨N1, N0, N2, N1, N1, N2, N2, N0, N0⟩ : Grid) P2 = some (ZP, some M22) :=
  readBoardAux_step P2 4 (⟨N1, N0, N2, N1, N1, N2, N2, N0, N0⟩ : Grid) P2 [M01, M21, M22] rfl rfl
    (collectScores_cons v122112200 (collectScores_cons v102112220 (collectScores_cons t102112202 collectScores_nil))) rfl

theorem t102102212 : readBoardAux P2 4 (⟨N1, N0, N2, N1, N0, N2, N2, N1, N2⟩ : Grid) P1 = some (ZP, none) :=
  rfl

theorem v102102210 : readBoardAux P2 5 (⟨N1, N0, N2, N1, N0, N2, N2, N1, N0⟩ : Grid) P2 = some (ZP, some M01) :=
  readBoardAux_step P2 4 (⟨N1, N0, N2, N1, N0, N2, N2, N1, N0⟩ : Grid) P2 [M01, M11, M22] rfl rfl
    (collectScores_cons v122102210 (collectScores_cons t102122210 (collectScores_cons t102102212 collectScores_nil))) rfl

theorem v102102221 : readBoardAux P2 4 (⟨N1, N0, N2, N1, N0, N2, N2, N2, N1⟩ : Grid) P1 = some (ZM, some M11) :=
  readBoardAux_step P2 3 (⟨N1, N0, N2, N1, N0, N2, N2, N2, N1⟩ : Grid) P1 [M01, M11] rfl rfl
    (collectScores_cons v112102221 (collectScores_cons t102112221 collectScores_nil)) rfl

theorem v102102201 : readBoardAux P2 5 (⟨N1, N0, N2, N1, N0, N2, N2, N0, N1⟩ : Grid) P2 = some (ZP, some M11) :=
  readBoardAux_step P2 4 (⟨N1, N0, N2, N1, N0, N2, N2, N0, N1⟩ : Grid) P2 [M01, M11, M21] rfl rfl
    (collectScores_cons v122102201 (collectScores_cons t102122201 (collectScores_cons v102102221 collectScores_nil))) rfl

theorem v102102200 : readBoardAux P2 6 (⟨N1, N0, N2, N1, N0, N2, N2, N0, N0⟩ : Grid) P1 = some (ZP, some M01) :=
  readBoardAux_step P2 5 (⟨N1, N0, N2, N1, N0, N2, N2, N0, N0⟩ : Grid) P1 [M01, M11, M21, M22] rfl rfl
    (collectScores_cons v112102200 (collectScores_cons v102112200 (collectScores_cons v102102210 (collectScores_cons v102102201 collectScores_nil)))) rfl

theorem t102112022 : readBoardAux P2 4 (⟨N1, N0, N2, N1, N1, N2, N0, N2, N2⟩ : Grid) P1 = some (ZP, none) :=
  rfl

theorem v102112020 : readBoardAux P2 5 (⟨N1, N0, N2, N1, N1, N2, N0, N2, N0⟩ : Grid) P2 = some (ZP, some M22) :=
  readBoardAux_step P2 4 (⟨N1, N0, N2, N1, N1, N2, N0, N2, N0⟩ : Grid) P2 [M01, M20, M22] rfl rfl
    (collectScores_cons v122112020 (collectScores_cons v102112220 (collectScores_cons t102112022 collectScores_nil))) rfl

theorem t102102120 : readBoardAux P2 5 (⟨N1, N0, N2, N1, N0, N2, N1, N2, N0⟩ : Grid) P2 = some (ZM, none) :=
  rfl

theorem v102102021 : readBoardAux P2 5 (⟨N1, N0, N2, N1, N0, N2, N0, N2, N1⟩ : Grid) P2 = some (ZM, some M01) :=
  readBoardAux_step P2 4 (⟨N1, N0, N2, N1, N0, N2, N0, N2, N1⟩ : Grid) P2 [M01, M11, M20] rfl rfl
    (collectScores_cons v122102021 (collectScores_cons v102122021 (collectScores_cons v102102221 collectScores_nil))) rfl

theorem v102102020 : readBoardAux P2 6 (⟨N1, N0, N2, N1, N0, N2, N0, N2, N0⟩ : Grid) P1 = some (ZM, some M20) :=
  readBoardAux_step P2 5 (⟨N1, N0, N2, N1, N0, N2, N0, N2, N0⟩ : Grid) P1 [M01, M11, M20, M22] rfl rfl
    (collectScores_cons v112102020 (collectScores_cons v102112020 (collectScores_cons t102102120 (collectScores_cons v102102021 collectScores_nil)))) rfl

theorem t102102002 : readBoardAux P2 6 (⟨N1, N0, N2, N1, N0, N2, N0, N0, N2⟩ : Grid) P1 = some (ZP, none) :=
  rfl

theorem v102102000 : readBoardAux P2 7 (⟨N1, N0, N2, N1, N0, N2, N0, N0, N0⟩ : Grid) P2 = some (ZP, some M20) :=
  readBoardAux_step P2 6 (⟨N1, N0, N2, N1, N0, N2, N0, N0, N0⟩ : Grid) P2 [M01, M11, M20, M21, M22] rfl rfl
    (collectScores_cons v122102000 (collectScores_cons v102122000 (collectScores_cons v102102200 (collectScores_cons v102102020 (collectScores_cons t102102002 collectScores_nil))))) rfl

theorem t102012212 : readBoardAux P2 4 (⟨N1, N0, N2, N0, N1, N2, N2, N1, N2⟩ : Grid) P1 = some (ZP, none) :=
  rfl

theorem v102012210 : readBoardAux P2 5 (⟨N1, N0, N2, N0, N1, N2, N2, N1, N0⟩ : Grid) P2 = some (ZP, some M22) :=
  readBoardAux_step P2 4 (⟨N1, N0, N2, N0, N1, N2, N2, N1, N0⟩ : Grid) P2 [M01, M10, M22] rfl rfl
    (collectScores_cons v122012210 (collectScores_cons v102212210 (collectScores_cons t102012212 collectScores_nil))) rfl

theorem t102012201 : readBoardAux P2 5 (⟨N1, N0, N2, N0, N1, N2, N2, N0, N1⟩ : Grid) P2 = some (ZM, none) :=
  rfl

theorem v102012200 : readBoardAux P2 6 (⟨N1, N0, N2, N0, N1, N2, N2, N0, N0⟩ : Grid) P1 = some (ZM, some M22) :=
  readBoardAux_step P2 5 (⟨N1, N0, N2, N0, N1, N2, N2, N0, N0⟩ : Grid) P1 [M01, M10, M21, M22] rfl rfl
    (collectScores_cons v112012200 (collectScores_cons v102112200 (collectScores_cons v102012210 (collectScores_cons t102012201 collectScores_nil)))) rfl

theorem t102012122 : readBoardAux P2 4 (⟨N1, N0, N2, N0, N1, N2, N1, N2, N2⟩ : Grid) P1 = some (ZP, none) :=
  rfl

theorem v102012120 : readBoardAux P2 5 (⟨N1, N0, N2, N0, N1, N2, N1, N2, N0⟩ : Grid) P2 = some (ZP, some M22) :=
  readBoardAux_step P2 4 (⟨N1, N0, N2, N0, N1, N2, N1, N2, N0⟩ : Grid) P2 [M01, M10, M22] rfl rfl
    (collectScores_cons v122012120 (collectScores_cons v102212120 (collectScores_cons t102012122 collectScores_nil))) rfl

theorem t102012021 : readBoardAux P2 5 (⟨N1, N0, N2, N0, N1, N2, N0, N2, N1⟩ : Grid) P2 = some (ZM, none) :=
  rfl

theorem v102012020 : readBoardAux P2 6 (⟨N1, N0, N2, N0, N1, N2, N0, N2, N0⟩ : Grid) P1 = some (ZM, some M22) :=
  readBoardAux_step P2 5 (⟨N1, N0, N2, N0, N1, N2, N0, N2, N0⟩ : Grid) P1 [M01, M10, M20, M22] rfl rfl
    (collectScores_cons v112012020 (collectScores_cons v102112020 (collectScores_cons v102012120 (collectScores_cons t102012021 collectScores_nil)))) rfl

theorem t102012002 : readBoardAux P2 6 (⟨N1, N0, N2, N0, N1, N2, N0, N0, N2⟩ : Grid) P1 = some (ZP, none) :=
  rfl

theorem v102012000 : readBoardAux P2 7 (⟨N1, N0, N2, N0, N1, N2, N0, N0, N0⟩ : Grid) P2 = some (ZP, some M22) :=
  readBoardAux_step P2 6 (⟨N1, N0, N2, N0, N1, N2, N0, N0, N0⟩ : Grid) P2 [M01, M10, M20, M21, M22] rfl rfl
    (collectScores_cons v122012000 (collectScores_cons v102212000 (collectScores_cons v102012200 (collectScores_cons v102012020 (collectScores_cons t102012002 collectScores_nil))))) rfl

theorem v102002121 : readBoardAux P2 5 (⟨N1, N0, N2, N0, N0, N2, N1, N2, N1⟩ : Grid) P2 = some (ZM, some M01) :=
  readBoardAux_step P2 4 (⟨N1, N0, N2, N0, N0, N2, N1, N2, N1⟩ : Grid) P2 [M01, M10, M11] rfl rfl
    (collectScores_cons v122002121 (collectScores_cons v102202121 (collectScores_cons v102022121 collectScores_nil))) rfl

theorem v102002120 : readBoardAux P2 6 (⟨N1, N0, N2, N0, N0, N2, N1, N2, N0⟩ : Grid) P1 = some (ZM, some M10) :=
  readBoardAux_step P2 5 (⟨N1, N0, N2, N0, N0, N2, N1, N2, N0⟩ : Grid) P1 [M01, M10, M11, M22] rfl rfl
    (collectScores_cons v112002120 (collectScores_cons t102102120 (collectScores_cons v102012120 (collectScores_cons v102002121 collectScores_nil)))) rfl

theorem t102002102 : readBoardAux P2 6 (⟨N1, N0, N2, N0, N0, N2, N1, N0, N2⟩ : Grid) P1 = some (ZP, none) :=
  rfl

theorem v102002100 : readBoardAux P2 7 (⟨N1, N0, N2, N0, N0, N2, N1, N0, N0⟩ : Grid) P2 = some (ZP, some M10) :=
  readBoardAux_step P2 6 (⟨N1, N0, N2, N0, N0, N2, N1, N0, N0⟩ : Grid) P2 [M01, M10, M11, M21, M22] rfl rfl
    (collectScores_cons v122002100 (collectScores_cons v102202100 (collectScores_cons v102022100 (collectScores_cons v102002120 (collectScores_cons t102002102 collectScores_nil))))) rfl

theorem v102002211 : readBoardAux P2 5 (⟨N1, N0, N2, N0, N0, N2, N2, N1, N1⟩ : Grid) P2 = some (ZP, some M11) :=
  readBoardAux_step P2 4 (⟨N1, N0, N2, N0, N0, N2, N2, N1, N1⟩ : Grid) P2 [M01, M10, M11] rfl rfl
    (collectScores_cons v122002211 (collectScores_cons v102202211 (collectScores_cons t102022211 collectScores_nil))) rfl

theorem v102002210 : readBoardAux P2 6 (⟨N1, N0, N2, N0, N0, N2, N2, N1, N0⟩ : Grid) P1 = some (ZP, some M01) :=
  readBoardAux_step P2 5 (⟨N1, N0, N2, N0, N0, N2, N2, N1, N0⟩ : Grid) P1 [M01, M10, M11, M22] rfl rfl
    (collectScores_cons v112002210 (collectScores_cons v102102210 (collectScores_cons v102012210 (collectScores_cons v102002211 collectScores_nil)))) rfl

theorem t102002012 : readBoardAux P2 6 (⟨N1, N0, N2, N0, N0, N2, N0, N1, N2⟩ : Grid) P1 = some (ZP, none) :=
  rfl

theorem v102002010 : readBoardAux P2 7 (⟨N1, N0, N2, N0, N0, N2, N0, N1, N0⟩ : Grid) P2 = some (ZP, some M10) :=
  readBoardAux_step P2 6 (⟨N1, N0, N2, N0, N0, N2, N0, N1, N0⟩ : Grid) P2 [M01, M10, M11, M20, M22] rfl rfl
    (collectScores_cons v122002010 (collectScores_cons v102202010 (collectScores_cons v102022010 (collectScores_cons v102002210 (collectScores_cons t102002012 collectScores_nil))))) rfl

theorem v102002201 : readBoardAux P2 6 (⟨N1, N0, N2, N0, N0, N2, N2, N0, N1⟩ : Grid) P1 = some (ZM, some M11) :=
  readBoardAux_step P2 5 (⟨N1, N0, N2, N0, N0, N2, N2, N0, N1⟩ : Grid) P1 [M01, M10, M11, M21] rfl rfl
    (collectScores_cons v112002201 (collectScores_cons v102102201 (collectScores_cons t102012201 (collectScores_cons v102002211 collectScores_nil)))) rfl

theorem v102002021 : readBoardAux P2 6 (⟨N1, N0, N2, N0, N0, N2, N0, N2, N1⟩ : Grid) P1 = some (ZM, some M10) :=
  readBoardAux_step P2 5 (⟨N1, N0, N2, N0, N0, N2, N0, N2, N1⟩ : Grid) P1 [M01, M10, M11, M20] rfl rfl
    (collectScores_cons v112002021 (collectScores_cons v102102021 (collectScores_cons t102012021 (collectScores_cons v102002121 collectScores_nil)))) rfl

theorem v102002001 : readBoardAux P2 7 (⟨N1, N0, N2, N0, N0, N2, N0, N0, N1⟩ : Grid) P2 = some (ZP, some M11) :=
  readBoardAux_step P2 6 (⟨N1, N0, N2, N0, N0, N2, N0, N0, N1⟩ : Grid) P2 [M01, M10, M11, M20, M21] rfl rfl
    (collectScores_cons v122002001 (collectScores_cons v102202001 (collectScores_cons v102022001 (collectScores_cons v102002201 (collectScores_cons v102002021 collectScores_nil))))) rfl

theorem v102002000 : readBoardAux P2 8 (⟨N1, N0, N2, N0, N0, N2, N0, N0, N0⟩ : Grid) P1 = some (ZP, some M01) :=
  readBoardAux_step P2 7 (⟨N1, N0, N2, N0, N0, N2, N0, N0, N0⟩ : Grid) P1 [M01, M10, M11, M20, M21, M22] rfl rfl
    (collectScores_cons v112002000 (collectScores_cons v102102000 (collectScores_cons v102012000 (collectScores_cons v102002100 (collectScores_cons v102002010 (collectScores_cons v102002001 collectScores_nil)))))) rfl

theorem t112100222 : readBoardAux P2 4 (⟨N1, N1, N2, N1, N0, N0, N2, N2, N2⟩ : Grid) P1 = some (ZP, none) :=
  rfl

theorem v112100220 : readBoardAux P2 5 (⟨N1, N1, N2, N1, N0, N0, N2, N2, N0⟩ : Grid) P2 = some (ZP, some M11) :=
  readBoardAux_step P2 4 (⟨N1, N1, N2, N1, N0, N0, N2, N2, N0⟩ : Grid) P2 [M11, M12, M22] rfl rfl
    (collectScores_cons t112120220 (collectScores_cons v112102220 (collectScores_cons t112100222 collectScores_nil))) rfl

theorem t112010222 : readBoardAux P2 4 (⟨N1, N1, N2, N0, N1, N0, N2, N2, N2⟩ : Grid) P1 = some (ZP, none) :=
  rfl

theorem v112010220 : readBoardAux P2 5 (⟨N1, N1, N2, N0, N1, N0, N2, N2, N0⟩ : Grid) P2 = some (ZP, some M22) :=
  readBoardAux_step P2 4 (⟨N1, N1, N2, N0, N1, N0, N2, N2, N0⟩ : Grid) P2 [M10, M12, M22] rfl rfl
    (collectScores_cons v112210220 (collectScores_cons v112012220 (collectScores_cons t112010222 collectScores_nil))) rfl

theorem t112001222 : readBoardAux P2 4 (⟨N1, N1, N2, N0, N0, N1, N2, N2, N2⟩ : Grid) P1 = some (ZP, none) :=
  rfl

theorem v112001220 : readBoardAux P2 5 (⟨N1, N1, N2, N0, N0, N1, N2, N2, N0⟩ : Grid) P2 = some (ZP, some M10) :=
  readBoardAux_step P2 4 (⟨N1, N1, N2, N0, N0, N1, N2, N2, N0⟩ : Grid) P2 [M10, M11, M22] rfl rfl
    (collectScores_cons v112201220 (collectScores_cons t112021220 (collectScores_cons t112001222 collectScores_nil))) rfl

theorem v112000221 : readBoardAux P2 5 (⟨N1, N1, N2, N0, N0, N0, N2, N2, N1⟩ : Grid) P2 = some (ZP, some M11) :=
  readBoardAux_step P2 4 (⟨N1, N1, N2, N0, N0, N0, N2, N2, N1⟩ : Grid) P2 [M10, M11, M12] rfl rfl
    (collectScores_cons v112200221 (collectScores_cons t112020221 (collectScores_cons v112002221 collectScores_nil))) rfl

theorem v112000220 : readBoardAux P2 6 (⟨N1, N1, N2, N0, N0, N0, N2, N2, N0⟩ : Grid) P1 = some (ZP, some M10) :=
  readBoardAux_step P2 5 (⟨N1, N1, N2, N0, N0, N0, N2, N2, N0⟩ : Grid) P1 [M10, M11, M12, M22] rfl rfl
    (collectScores_cons v112100220 (collectScores_cons v112010220 (collectScores_cons v112001220 (collectScores_cons v112000221 collectScores_nil)))) rfl

theorem v112100202 : readBoardAux P2 5 (⟨N1, N1, N2, N1, N0, N0, N2, N0, N2⟩ : Grid) P2 = some (ZP, some M11) :=
  readBoardAux_step P2 4 (⟨N1, N1, N2, N1, N0, N0, N2, N0, N2⟩ : Grid) P2 [M11, M12, M21] rfl rfl
    (collectScores_cons t112120202 (collectScores_cons t112102202 (collectScores_cons t112100222 collectScores_nil))) rfl

theorem v112010202 : readBoardAux P2 5 (⟨N1, N1, N2, N0, N1, N0, N2, N0, N2⟩ : Grid) P2 = some (ZP, some M12) :=
  readBoardAux_step P2 4 (⟨N1, N1, N2, N0, N1, N0, N2, N0, N2⟩ : Grid) P2 [M10, M12, M21] rfl rfl
    (collectScores_cons v112210202 (collectScores_cons t112012202 (collectScores_cons t112010222 collectScores_nil))) rfl

theorem v112001202 : readBoardAux P2 5 (⟨N1, N1, N2, N0, N0, N1, N2, N0, N2⟩ : Grid) P2 = some (ZP, some M10) :=
  readBoardAux_step P2 4 (⟨N1, N1, N2, N0, N0, N1, N2, N0, N2⟩ : Grid) P2 [M10, M11, M21] rfl rfl
    (collectScores_cons v112201202 (collectScores_cons t112021202 (collectScores_cons t112001222 collectScores_nil))) rfl

theorem v112000212 : readBoardAux P2 5 (⟨N1, N1, N2, N0, N0, N0, N2, N1, N2⟩ : Grid) P2 = some (ZP, some M11) :=
  readBoardAux_step P2 4 (⟨N1, N1, N2, N0, N0, N0, N2, N1, N2⟩ : Grid) P2 [M10, M11, M12] rfl rfl
    (collectScores_cons v112200212 (collectScores_cons t112020212 (collectScores_cons t112002212 collectScores_nil))) rfl

theorem v112000202 : readBoardAux P2 6 (⟨N1, N1, N2, N0, N0, N0, N2, N0, N2⟩ : Grid) P1 = some (ZP, some M10) :=
  readBoardAux_step P2 5 (⟨N1, N1, N2, N0, N0, N0, N2, N0, N2⟩ : Grid) P1 [M10, M11, M12, M21] rfl rfl
    (collectScores_cons v112100202 (collectScores_cons v112010202 (collectScores_cons v112001202 (collectScores_cons v112000212 collectScores_nil)))) rfl

theorem v112000200 : readBoardAux P2 7 (⟨N1, N1, N2, N0, N0, N0, N2, N0, N0⟩ : Grid) P2 = some (ZP, some M11) :=
  readBoardAux_step P2 6 (⟨N1, N1, N2, N0, N0, N0, N2, N0, N0⟩ : Grid) P2 [M10, M11, M12, M21, M22] rfl rfl
    (collectScores_cons v112200200 (collectScores_cons t112020200 (collectScores_cons v112002200 (collectScores_cons v112000220 (collectScores_cons v112000202 collectScores_nil))))) rfl

theorem t102110222 : readBoardAux P2 4 (⟨N1, N0, N2, N1, N1, N0, N2, N2, N2⟩ : Grid) P1 = some (ZP, none) :=
  rfl

theorem v102110220 : readBoardAux P2 5 (⟨N1, N0, N2, N1, N1, N0, N2, N2, N0⟩ : Grid) P2 = some (ZP, some M22) :=
  readBoardAux_step P2 4 (⟨N1, N0, N2, N1, N1, N0, N2, N2, N0⟩ : Grid) P2 [M01, M12, M22] rfl rfl
    (collectScores_cons v122110220 (collectScores_cons v102112220 (collectScores_cons t102110222 collectScores_nil))) rfl

theorem t102101222 : readBoardAux P2 4 (⟨N1, N0, N2, N1, N0, N1, N2, N2, N2⟩ : Grid) P1 = some (ZP, none) :=
  rfl

theorem v102101220 : readBoardAux P2 5 (⟨N1, N0, N2, N1, N0, N1, N2, N2, N0⟩ : Grid) P2 = some (ZP, some M11) :=
  readBoardAux_step P2 4 (⟨N1, N0, N2, N1, N0, N1, N2, N2, N0⟩ : Grid) P2 [M01, M11, M22] rfl rfl
    (collectScores_cons v122101220 (collectScores_cons t102121220 (collectScores_cons t102101222 collectScores_nil))) rfl

theorem v102100221 : readBoardAux P2 5 (⟨N1, N0, N2, N1, N0, N0, N2, N2, N1⟩ : Grid) P2 = some (ZP, some M11) :=
  readBoardAux_step P2 4 (⟨N1, N0, N2, N1, N0, N0, N2, N2, N1⟩ : Grid) P2 [M01, M11, M12] rfl rfl
    (collectScores_cons v122100221 (collectScores_cons t102120221 (collectScores_cons v102102221 collectScores_nil))) rfl

theorem v102100220 : readBoardAux P2 6 (⟨N1, N0, N2, N1, N0, N0, N2, N2, N0⟩ : Grid) P1 = some (ZP, some M01) :=
  readBoardAux_step P2 5 (⟨N1, N0, N2, N1, N0, N0, N2, N2, N0⟩ : Grid) P1 [M01, M11, M12, M22] rfl rfl
    (collectScores_cons v112100220 (collectScores_cons v102110220 (collectScores_cons v102101220 (collectScores_cons v102100221 collectScores_nil)))) rfl

theorem v102110202 : readBoardAux P2 5 (⟨N1, N0, N2, N1, N1, N0, N2, N0, N2⟩ : Grid) P2 = some (ZP, some M12) :=
  readBoardAux_step P2 4 (⟨N1, N0, N2, N1, N1, N0, N2, N0, N2⟩ : Grid) P2 [M01, M12, M21] rfl rfl
    (collectScores_cons v122110202 (collectScores_cons t102112202 (collectScores_cons t102110222 collectScores_nil))) rfl

theorem v102101202 : readBoardAux P2 5 (⟨N1, N0, N2, N1, N0, N1, N2, N0, N2⟩ : Grid) P2 = some (ZP, some M11) :=
  readBoardAux_step P2 4 (⟨N1, N0, N2, N1, N0, N1, N2, N0, N2⟩ : Grid) P2 [M01, M11, M21] rfl rfl
    (collectScores_cons v122101202 (collectScores_cons t102121202 (collectScores_cons t102101222 collectScores_nil))) rfl

theorem v102100212 : readBoardAux P2 5 (⟨N1, N0, N2, N1, N0, N0, N2, N1, N2⟩ : Grid) P2 = some (ZP, some M01) :=
  readBoardAux_step P2 4 (⟨N1, N0, N2, N1, N0, N0, N2, N1, N2⟩ : Grid) P2 [M01, M11, M12] rfl rfl
    (collectScores_cons v122100212 (collectScores_cons t102120212 (collectScores_cons t102102212 collectScores_nil))) rfl

theorem v102100202 : readBoardAux P2 6 (⟨N1, N0, N2, N1, N0, N0, N2, N0, N2⟩ : Grid) P1 = some (ZP, some M01) :=
  readBoardAux_step P2 5 (⟨N1, N0, N2, N1, N0, N0, N2, N0, N2⟩ : Grid) P1 [M01, M11, M12, M21] rfl rfl
    (collectScores_cons v112100202 (collectScores_cons v102110202 (collectScores_cons v102101202 (collectScores_cons v102100212 collectScores_nil)))) rfl

theorem v102100200 : readBoardAux P2 7 (⟨N1, N0, N2, N1, N0, N0, N2, N0, N0⟩ : Grid) P2 = some (ZP, some M11) :=
  readBoardAux_step P2 6 (⟨N1, N0, N2, N1, N0, N0, N2, N0, N0⟩ : Grid) P2 [M01, M11, M12, M21, M22] rfl rfl
    (collectScores_cons v122100200 (collectScores_cons t102120200 (collectScores_cons v102102200 (collectScores_cons v102100220 (collectScores_cons v102100202 collectScores_nil))))) rfl

theorem t102011222 : readBoardAux P2 4 (⟨N1, N0, N2, N0, N1, N1, N2, N2, N2⟩ : Grid) P1 = some (ZP, none) :=
  rfl

theorem v102011220 : readBoardAux P2 5 (⟨N1, N0, N2, N0, N1, N1, N2, N2, N0⟩ : Grid) P2 = some (ZP, some M22) :=
  readBoardAux_step P2 4 (⟨N1, N0, N2, N0, N1, N1, N2, N2, N0⟩ : Grid) P2 [M01, M10, M22] rfl rfl
    (collectScores_cons v122011220 (collectScores_cons v102211220 (collectScores_cons t102011222 collectScores_nil))) rfl

theorem t102010221 : readBoardAux P2 5 (⟨N1, N0, N2, N0, N1, N0, N2, N2, N1⟩ : Grid) P2 = some (ZM, none) :=
  rfl

theorem v102010220 : readBoardAux P2 6 (⟨N1, N0, N2, N0, N1, N0, N2, N2, N0⟩ : Grid) P1 = some (ZM, some M22) :=
  readBoardAux_step P2 5 (⟨N1, N0, N2, N0, N1, N0, N2, N2, N0⟩ : Grid) P1 [M01, M10, M12, M22] rfl rfl
    (collectScores_cons v112010220 (collectScores_cons v102110220 (collectScores_cons v102011220 (collectScores_cons t102010221 collectScores_nil)))) rfl

theorem v102011202 : readBoardAux P2 5 (⟨N1, N0, N2, N0, N1, N1, N2, N0, N2⟩ : Grid) P2 = some (ZP, some M21) :=
  readBoardAux_step P2 4 (⟨N1, N0, N2, N0, N1, N1, N2, N0, N2⟩ : Grid) P2 [M01, M10, M21] rfl rfl
    (collectScores_cons v122011202 (collectScores_cons v102211202 (collectScores_cons t102011222 collectScores_nil))) rfl

theorem v102010212 : readBoardAux P2 5 (⟨N1, N0, N2, N0, N1, N0, N2, N1, N2⟩ : Grid) P2 = some (ZP, some M12) :=
  readBoardAux_step P2 4 (⟨N1, N0, N2, N0, N1, N0, N2, N1, N2⟩ : Grid) P2 [M01, M10, M12] rfl rfl
    (collectScores_cons v122010212 (collectScores_cons v102210212 (collectScores_cons t102012212 collectScores_nil))) rfl

theorem v102010202 : readBoardAux P2 6 (⟨N1, N0, N2, N0, N1, N0, N2, N0, N2⟩ : Grid) P1 = some (ZP, some M01) :=
  readBoardAux_step P2 5 (⟨N1, N0, N2, N0, N1, N0, N2, N0, N2⟩ : Grid) P1 [M01, M10, M12, M21] rfl rfl
    (collectScores_cons v112010202 (collectScores_cons v102110202 (collectScores_cons v102011202 (collectScores_cons v102010212 collectScores_nil)))) rfl

theorem v102010200 : readBoardAux P2 7 (⟨N1, N0, N2, N0, N1, N0, N2, N0, N0⟩ : Grid) P2 = some (ZP, some M22) :=
  readBoardAux_step P2 6 (⟨N1, N0, N2, N0, N1, N0, N2, N0, N0⟩ : Grid) P2 [M01, M10, M12, M21, M22] rfl rfl
    (collectScores_cons v122010200 (collectScores_cons v102210200 (collectScores_cons v102012200 (collectScores_cons v102010220 (collectScores_cons v102010202 collectScores_nil))))) rfl

theorem v102001221 : readBoardAux P2 5 (⟨N1, N0, N2, N0, N0, N1, N2, N2, N1⟩ : Grid) P2 = some (ZP, some M11) :=
  readBoardAux_step P2 4 (⟨N1, N0, N2, N0, N0, N1, N2, N2, N1⟩ : Grid) P2 [M01, M10, M11] rfl rfl
    (collectScores_cons v122001221 (collectScores_cons v102201221 (collectScores_cons t102021221 collectScores_nil))) rfl

theorem v102001220 : readBoardAux P2 6 (⟨N1, N0, N2, N0, N0, N1, N2, N2, N0⟩ : Grid) P1 = some (ZP, some M01) :=
  readBoardAux_step P2 5 (⟨N1, N0, N2, N0, N0, N1, N2, N2, N0⟩ : Grid) P1 [M01, M10, M11, M22] rfl rfl
    (collectScores_cons v112001220 (collectScores_cons v102101220 (collectScores_cons v102011220 (collectScores_cons v102001221 collectScores_nil)))) rfl

theorem v102001212 : readBoardAux P2 5 (⟨N1, N0, N2, N0, N0, N1, N2, N1, N2⟩ : Grid) P2 = some (ZP, some M11) :=
  readBoardAux_step P2 4 (⟨N1, N0, N2, N0, N0, N1, N2, N1, N2⟩ : Grid) P2 [M01, M10, M11] rfl rfl
    (collectScores_cons v122001212 (collectScores_cons v102201212 (collectScores_cons t102021212 collectScores_nil))) rfl

theorem v102001202 : readBoardAux P2 6 (⟨N1, N0, N2, N0, N0, N1, N2, N0, N2⟩ : Grid) P1 = some (ZP, some M01) :=
  readBoardAux_step P2 5 (⟨N1, N0, N2, N0, N0, N1, N2, N0, N2⟩ : Grid) P1 [M01, M10, M11, M21] rfl rfl
    (collectScores_cons v112001202 (collectScores_cons v102101202 (collectScores_cons v102011202 (collectScores_cons v102001212 collectScores_nil)))) rfl

theorem v102001200 : readBoardAux P2 7 (⟨N1, N0, N2, N0, N0, N1, N2, N0, N0⟩ : Grid) P2 = some (ZP, some M11) :=
  readBoardAux_step P2 6 (⟨N1, N0, N2, N0, N0, N1, N2, N0, N0⟩ : Grid) P2 [M01, M10, M11, M21, M22] rfl rfl
    (collectScores_cons v122001200 (collectScores_cons v102201200 (collectScores_cons t102021200 (collectScores_cons v102001220 (collectScores_cons v102001202 collectScores_nil))))) rfl

theorem v102000212 : readBoardAux P2 6 (⟨N1, N0, N2, N0, N0, N0, N2, N1, N2⟩ : Grid) P1 = some (ZP, some M01) :=
  readBoardAux_step P2 5 (⟨N1, N0, N2, N0, N0, N0, N2, N1, N2⟩ : Grid) P1 [M01, M10, M11, M12] rfl rfl
    (collectScores_cons v112000212 (collectScores_cons v102100212 (collectScores_cons v102010212 (collectScores_cons v102001212 collectScores_nil)))) rfl

theorem v102000210 : readBoardAux P2 7 (⟨N1, N0, N2, N0, N0, N0, N2, N1, N0⟩ : Grid) P2 = some (ZP, some M11) :=
  readBoardAux_step P2 6 (⟨N1, N0, N2, N0, N0, N0, N2, N1, N0⟩ : Grid) P2 [M01, M10, M11, M12, M22] rfl rfl
    (collectScores_cons v122000210 (collectScores_cons v102200210 (collectScores_cons t102020210 (collectScores_cons v102002210 (collectScores_cons v102000212 collectScores_nil))))) rfl

theorem v102000221 : readBoardAux P2 6 (⟨N1, N0, N2, N0, N0, N0, N2, N2, N1⟩ : Grid) P1 = some (ZM, some M11) :=
  readBoardAux_step P2 5 (⟨N1, N0, N2, N0, N0, N0, N2, N2, N1⟩ : Grid) P1 [M01, M10, M11, M12] rfl rfl
    (collectScores_cons v112000221 (collectScores_cons v102100221 (collectScores_cons t102010221 (collectScores_cons v102001221 collectScores_nil)))) rfl

theorem v102000201 : readBoardAux P2 7 (⟨N1, N0, N2, N0, N0, N0, N2, N0, N1⟩ : Grid) P2 = some (ZP, some M11) :=
  readBoardAux_step P2 6 (⟨N1, N0, N2, N0, N0, N0, N2, N0, N1⟩ : Grid) P2 [M01, M10, M11, M12, M21] rfl rfl
    (collectScores_cons v122000201 (collectScores_cons v102200201 (collectScores_cons t102020201 (collectScores_cons v102002201 (collectScores_cons v102000221 collectScores_nil))))) rfl

theorem v102000200 : readBoardAux P2 8 (⟨N1, N0, N2, N0, N0, N0, N2, N0, N0⟩ : Grid) P1 = some (ZP, some M01) :=
  readBoardAux_step P2 7 (⟨N1, N0, N2, N0, N0, N0, N2, N0, N0⟩ : Grid) P1 [M01, M10, M11, M12, M21, M22] rfl rfl
    (collectScores_cons v112000200 (collectScores_cons v102100200 (collectScores_cons v102010200 (collectScores_cons v102001200 (collectScores_cons v102000210 (collectScores_cons v102000201 collectScores_nil)))))) rfl

theorem v112100022 : readBoardAux P2 5 (⟨N1, N1, N2, N1, N0, N0, N0, N2, N2⟩ : Grid) P2 = some (ZP, some M12) :=
  readBoardAux_step P2 4 (⟨N1, N1, N2, N1, N0, N0, N0, N2, N2⟩ : Grid) P2 [M11, M12, M20] rfl rfl
    (collectScores_cons v112120022 (collectScores_cons t112102022 (collectScores_cons t112100222 collectScores_nil))) rfl

theorem v112010022 : readBoardAux P2 5 (⟨N1, N1, N2, N0, N1, N0, N0, N2, N2⟩ : Grid) P2 = some (ZP, some M10) :=
  readBoardAux_step P2 4 (⟨N1, N1, N2, N0, N1, N0, N0, N2, N2⟩ : Grid) P2 [M10, M12, M20] rfl rfl
    (collectScores_cons v112210022 (collectScores_cons t112012022 (collectScores_cons t112010222 collectScores_nil))) rfl

theorem v112001022 : readBoardAux P2 5 (⟨N1, N1, N2, N0, N0, N1, N0, N2, N2⟩ : Grid) P2 = some (ZP, some M20) :=
  readBoardAux_step P2 4 (⟨N1, N1, N2, N0, N0, N1, N0, N2, N2⟩ : Grid) P2 [M10, M11, M20] rfl rfl
    (collectScores_cons v112201022 (collectScores_cons v112021022 (collectScores_cons t112001222 collectScores_nil))) rfl

theorem v112000122 : readBoardAux P2 5 (⟨N1, N1, N2, N0, N0, N0, N1, N2, N2⟩ : Grid) P2 = some (ZP, some M12) :=
  readBoardAux_step P2 4 (⟨N1, N1, N2, N0, N0, N0, N1, N2, N2⟩ : Grid) P2 [M10, M11, M12] rfl rfl
    (collectScores_cons v112200122 (collectScores_cons v112020122 (collectScores_cons t112002122 collectScores_nil))) rfl

theorem v112000022 : readBoardAux P2 6 (⟨N1, N1, N2, N0, N0, N0, N0, N2, N2⟩ : Grid) P1 = some (ZP, some M10) :=
  readBoardAux_step P2 5 (⟨N1, N1, N2, N0, N0, N0, N0, N2, N2⟩ : Grid) P1 [M10, M11, M12, M20] rfl rfl
    (collectScores_cons v112100022 (collectScores_cons v112010022 (collectScores_cons v112001022 (collectScores_cons v112000122 collectScores_nil)))) rfl

theorem v112000020 : readBoardAux P2 7 (⟨N1, N1, N2, N0, N0, N0, N0, N2, N0⟩ : Grid) P2 = some (ZP, some M10) :=
  readBoardAux_step P2 6 (⟨N1, N1, N2, N0, N0, N0, N0, N2, N0⟩ : Grid) P2 [M10, M11, M12, M20, M22] rfl rfl
    (collectScores_cons v112200020 (collectScores_cons v112020020 (collectScores_cons v112002020 (collectScores_cons v112000220 (collectScores_cons v112000022 collectScores_nil))))) rfl

theorem v102110022 : readBoardAux P2 5 (⟨N1, N0, N2, N1, N1, N0, N0, N2, N2⟩ : Grid) P2 = some (ZP, some M12) :=
  readBoardAux_step P2 4 (⟨N1, N0, N2, N1, N1, N0, N0, N2, N2⟩ : Grid) P2 [M01, M12, M20] rfl rfl
    (collectScores_cons v122110022 (collectScores_cons t102112022 (collectScores_cons t102110222 collectScores_nil))) rfl

theorem v102101022 : readBoardAux P2 5 (⟨N1, N0, N2, N1, N0, N1, N0, N2, N2⟩ : Grid) P2 = some (ZP, some M20) :=
  readBoardAux_step P2 4 (⟨N1, N0, N2, N1, N0, N1, N0, N2, N2⟩ : Grid) P2 [M01, M11, M20] rfl rfl
    (collectScores_cons v122101022 (collectScores_cons v102121022 (collectScores_cons t102101222 collectScores_nil))) rfl

theorem t102100122 : readBoardAux P2 5 (⟨N1, N0, N2, N1, N0, N0, N1, N2, N2⟩ : Grid) P2 = some (ZM, none) :=
  rfl

theorem v102100022 : readBoardAux P2 6 (⟨N1, N0, N2, N1, N0, N0, N0, N2, N2⟩ : Grid) P1 = some (ZM, some M20) :=
  readBoardAux_step P2 5 (⟨N1, N0, N2, N1, N0, N0, N0, N2, N2⟩ : Grid) P1 [M01, M11, M12, M20] rfl rfl
    (collectScores_cons v112100022 (collectScores_cons v102110022 (collectScores_cons v102101022 (collectScores_cons t102100122 collectScores_nil)))) rfl

theorem v102100020 : readBoardAux P2 7 (⟨N1, N0, N2, N1, N0, N0, N0, N2, N0⟩ : Grid) P2 = some (ZP, some M20) :=
  readBoardAux_step P2 6 (⟨N1, N0, N2, N1, N0, N0, N0, N2, N0⟩ : Grid) P2 [M01, M11, M12, M20, M22] rfl rfl
    (collectScores_cons v122100020 (collectScores_cons v102120020 (collectScores_cons v102102020 (collectScores_cons v102100220 (collectScores_cons v102100022 collectScores_nil))))) rfl

theorem v102011022 : readBoardAux P2 5 (⟨N1, N0, N2, N0, N1, N1, N0, N2, N2⟩ : Grid) P2 = some (ZP, some M20) :=
  readBoardAux_step P2 4 (⟨N1, N0, N2, N0, N1, N1, N0, N2, N2⟩ : Grid) P2 [M01, M10, M20] rfl rfl
    (collectScores_cons v122011022 (collectScores_cons v102211022 (collectScores_cons t102011222 collectScores_nil))) rfl

theorem v102010122 : readBoardAux P2 5 (⟨N1, N0, N2, N0, N1, N0, N1, N2, N2⟩ : Grid) P2 = some (ZP, some M12) :=
  readBoardAux_step P2 4 (⟨N1, N0, N2, N0, N1, N0, N1, N2, N2⟩ : Grid) P2 [M01, M10, M12] rfl rfl
    (collectScores_cons v122010122 (collectScores_cons v102210122 (collectScores_cons t102012122 collectScores_nil))) rfl

theorem v102010022 : readBoardAux P2 6 (⟨N1, N0, N2, N0, N1, N0, N0, N2, N2⟩ : Grid) P1 = some (ZP, some M01) :=
  readBoardAux_step P2 5 (⟨N1, N0, N2, N0, N1, N0, N0, N2, N2⟩ : Grid) P1 [M01, M10, M12, M20] rfl rfl
    (collectScores_cons v112010022 (collectScores_cons v102110022 (collectScores_cons v102011022 (collectScores_cons v102010122 collectScores_nil)))) rfl

theorem v102010020 : readBoardAux P2 7 (⟨N1, N0, N2, N0, N1, N0, N0, N2, N0⟩ : Grid) P2 = some (ZP, some M22) :=
  readBoardAux_step P2 6 (⟨N1, N0, N2, N0, N1, N0, N0, N2, N0⟩ : Grid) P2 [M01, M10, M12, M20, M22] rfl rfl
    (collectScores_cons v122010020 (collectScores_cons v102210020 (collectScores_cons v102012020 (collectScores_cons v102010220 (collectScores_cons v102010022 collectScores_nil))))) rfl

theorem v102001122 : readBoardAux P2 5 (⟨N1, N0, N2, N0, N0, N1, N1, N2, N2⟩ : Grid) P2 = some (Z0, some M10) :=
  readBoardAux_step P2 4 (⟨N1, N0, N2, N0, N0, N1, N1, N2, N2⟩ : Grid) P2 [M01, M10, M11] rfl rfl
    (collectScores_cons v122001122 (collectScores_cons v102201122 (collectScores_cons v102021122 collectScores_nil))) rfl

theorem v102001022 : readBoardAux P2 6 (⟨N1, N0, N2, N0, N0, N1, N0, N2, N2⟩ : Grid) P1 = some (Z0, some M20) :=
  readBoardAux_step P2 5 (⟨N1, N0, N2, N0, N0, N1, N0, N2, N2⟩ : Grid) P1 [M01, M10, M11, M20] rfl rfl
    (collectScores_cons v112001022 (collectScores_cons v102101022 (collectScores_cons v102011022 (collectScores_cons v102001122 collectScores_nil)))) rfl

theorem v102001020 : readBoardAux P2 7 (⟨N1, N0, N2, N0, N0, N1, N0, N2, N0⟩ : Grid) P2 = some (ZP, some M11) :=
  readBoardAux_step P2 6 (⟨N1, N0, N2, N0, N0, N1, N0, N2, N0⟩ : Grid) P2 [M01, M10, M11, M20, M22] rfl rfl
    (collectScores_cons v122001020 (collectScores_cons v102201020 (collectScores_cons v102021020 (collectScores_cons v102001220 (collectScores_cons v102001022 collectScores_nil))))) rfl

theorem v102000122 : readBoardAux P2 6 (⟨N1, N0, N2, N0, N0, N0, N1, N2, N2⟩ : Grid) P1 = some (ZM, some M10) :=
  readBoardAux_step P2 5 (⟨N1, N0, N2, N0, N0, N0, N1, N2, N2⟩ : Grid) P1 [M01, M10, M11, M12] rfl rfl
    (collectScores_cons v112000122 (collectScores_cons t102100122 (collectScores_cons v102010122 (collectScores_cons v102001122 collectScores_nil)))) rfl

theorem v102000120 : readBoardAux P2 7 (⟨N1, N0, N2, N0, N0, N0, N1, N2, N0⟩ : Grid) P2 = some (Z0, some M10) :=
  readBoardAux_step P2 6 (⟨N1, N0, N2, N0, N0, N0, N1, N2, N0⟩ : Grid) P2 [M01, M10, M11, M12, M22] rfl rfl
    (collectScores_cons v122000120 (collectScores_cons v102200120 (collectScores_cons v102020120 (collectScores_cons v102002120 (collectScores_cons v102000122 collectScores_nil))))) rfl

theorem v102000021 : readBoardAux P2 7 (⟨N1, N0, N2, N0, N0, N0, N0, N2, N1⟩ : Grid) P2 = some (ZP, some M11) :=
  readBoardAux_step P2 6 (⟨N1, N0, N2, N0, N0, N0, N0, N2, N1⟩ : Grid) P2 [M01, M10, M11, M12, M20] rfl rfl
    (collectScores_cons v122000021 (collectScores_cons v102200021 (collectScores_cons v102020021 (collectScores_cons v102002021 (collectScores_cons v102000221 collectScores_nil))))) rfl

theorem v102000020 : readBoardAux P2 8 (⟨N1, N0, N2, N0, N0, N0, N0, N2, N0⟩ : Grid) P1 = some (Z0, some M20) :=
  readBoardAux_step P2 7 (⟨N1, N0, N2, N0, N0, N0, N0, N2, N0⟩ : Grid) P1 [M01, M10, M11, M12, M20, M22] rfl rfl
    (collectScores_cons v112000020 (collectScores_cons v102100020 (collectScores_cons v102010020 (collectScores_cons v102001020 (collectScores_cons v102000120 (collectScores_cons v102000021 collectScores_nil)))))) rfl

theorem v112000002 : readBoardAux P2 7 (⟨N1, N1, N2, N0, N0, N0, N0, N0, N2⟩ : Grid) P2 = some (ZP, some M10) :=
  readBoardAux_step P2 6 (⟨N1, N1, N2, N0, N0, N0, N0, N0, N2⟩ : Grid) P2 [M10, M11, M12, M20, M21] rfl rfl
    (collectScores_cons v112200002 (collectScores_cons v112020002 (collectScores_cons t112002002 (collectScores_cons v112000202 (collectScores_cons v112000022 collectScores_nil))))) rfl

theorem v102100002 : readBoardAux P2 7 (⟨N1, N0, N2, N1, N0, N0, N0, N0, N2⟩ : Grid) P2 = some (ZP, some M12) :=
  readBoardAux_step P2 6 (⟨N1, N0, N2, N1, N0, N0, N0, N0, N2⟩ : Grid) P2 [M01, M11, M12, M20, M21] rfl rfl
    (collectScores_cons v122100002 (collectScores_cons v102120002 (collectScores_cons t102102002 (collectScores_cons v102100202 (collectScores_cons v102100022 collectScores_nil))))) rfl

theorem v102010002 : readBoardAux P2 7 (⟨N1, N0, N2, N0, N1, N0, N0, N0, N2⟩ : Grid) P2 = some (ZP, some M12) :=
  readBoardAux_step P2 6 (⟨N1, N0, N2, N0, N1, N0, N0, N0, N2⟩ : Grid) P2 [M01, M10, M12, M20, M21] rfl rfl
    (collectScores_cons v122010002 (collectScores_cons v102210002 (collectScores_cons t102012002 (collectScores_cons v102010202 (collectScores_cons v102010022 collectScores_nil))))) rfl

theorem v102001002 : readBoardAux P2 7 (⟨N1, N0, N2, N0, N0, N1, N0, N0, N2⟩ : Grid) P2 = some (ZP, some M20) :=
  readBoardAux_step P2 6 (⟨N1, N0, N2, N0, N0, N1, N0, N0, N2⟩ : Grid) P2 [M01, M10, M11, M20, M21] rfl rfl
    (collectScores_cons v122001002 (collectScores_cons v102201002 (collectScores_cons v102021002 (collectScores_cons v102001202 (collectScores_cons v102001022 collectScores_nil))))) rfl

theorem v102000102 : readBoardAux P2 7 (⟨N1, N0, N2, N0, N0, N0, N1, N0, N2⟩ : Grid) P2 = some (ZP, some M12) :=
  readBoardAux_step P2 6 (⟨N1, N0, N2, N0, N0, N0, N1, N0, N2⟩ : Grid) P2 [M01, M10, M11, M12, M21] rfl rfl
    (collectScores_cons v122000102 (collectScores_cons v102200102 (collectScores_cons v102020102 (collectScores_cons t102002102 (collectScores_cons v102000122 collectScores_nil))))) rfl

theorem v102000012 : readBoardAux P2 7 (⟨N1, N0, N2, N0, N0, N0, N0, N1, N2⟩ : Grid) P2 = some (ZP, some M11) :=
  readBoardAux_step P2 6 (⟨N1, N0, N2, N0, N0, N0, N0, N1, N2⟩ : Grid) P2 [M01, M10, M11, M12, M20] rfl rfl
    (collectScores_cons v122000012 (collectScores_cons v102200012 (collectScores_cons v102020012 (collectScores_cons t102002012 (collectScores_cons v102000212 collectScores_nil))))) rfl

theorem v102000002 : readBoardAux P2 8 (⟨N1, N0, N2, N0, N0, N0, N0, N0, N2⟩ : Grid) P1 = some (ZP, some M01) :=
  readBoardAux_step P2 7 (⟨N1, N0, N2, N0, N0, N0, N0, N0, N2⟩ : Grid) P1 [M01, M10, M11, M12, M20, M21] rfl rfl
    (collectScores_cons v112000002 (collectScores_cons v102100002 (collectScores_cons v102010002 (collectScores_cons v102001002 (collectScores_cons v102000102 (collectScores_cons v102000012 collectScores_nil)))))) rfl

theorem v102000000 : readBoardAux P2 9 (⟨N1, N0, N2, N0, N0, N0, N0, N0, N0⟩ : Grid) P2 = some (ZP, some M12) :=
  readBoardAux_step P2 8 (⟨N1, N0, N2, N0, N0, N0, N0, N0, N0⟩ : Grid) P2 [M01, M10, M11, M12, M20, M21, M22] rfl rfl
    (collectScores_cons v122000000 (collectScores_cons v102200000 (collectScores_cons v102020000 (collectScores_cons v102002000 (collectScores_cons v102000200 (collectScores_cons v102000020 (collectScores_cons v102000002 collectScores_nil))))))) rfl

theorem v012212121 : readBoardAux P2 3 (⟨N0, N1, N2, N2, N1, N2, N1, N2, N1⟩ : Grid) P2 = some (Z0, some M00) :=
  readBoardAux_step P2 2 (⟨N0, N1, N2, N2, N1, N2, N1, N2, N1⟩ : Grid) P2 [M00] rfl rfl
    (collectScores_cons t212212121 collectScores_nil) rfl

theorem v012212120 : readBoardAux P2 4 (⟨N0, N1, N2, N2, N1, N2, N1, N2, N0⟩ : Grid) P1 = some (Z0, some M22) :=
  readBoardAux_step P2 3 (⟨N0, N1, N2, N2, N1, N2, N1, N2, N0⟩ : Grid) P1 [M00, M22] rfl rfl
    (collectScores_cons v112212120 (collectScores_cons v012212121 collectScores_nil)) rfl

theorem t012212102 : readBoardAux P2 4 (⟨N0, N1, N2, N2, N1, N2, N1, N0, N2⟩ : Grid) P1 = some (ZP, none) :=
  rfl

theorem v012212100 : readBoardAux P2 5 (⟨N0, N1, N2, N2, N1, N2, N1, N0, N0⟩ : Grid) P2 = some (ZP, some M22) :=
  readBoardAux_step P2 4 (⟨N0, N1, N2, N2, N1, N2, N1, N0, N0⟩ : Grid) P2 [M00, M21, M22] rfl rfl
    (collectScores_cons v212212100 (collectScores_cons v012212120 (collectScores_cons t012212102 collectScores_nil))) rfl

theorem t012212010 : readBoardAux P2 5 (⟨N0, N1, N2, N2, N1, N2, N0, N1, N0⟩ : Grid) P2 = some (ZM, none) :=
  rfl

theorem t012212211 : readBoardAux P2 3 (⟨N0, N1, N2, N2, N1, N2, N2, N1, N1⟩ : Grid) P2 = some (ZM, none) :=
  rfl

theorem v012212201 : readBoardAux P2 4 (⟨N0, N1, N2, N2, N1, N2, N2, N0, N1⟩ : Grid) P1 = some (ZM, some M00) :=
  readBoardAux_step P2 3 (⟨N0, N1, N2, N2, N1, N2, N2, N0, N1⟩ : Grid) P1 [M00, M21] rfl rfl
    (collectScores_cons t112212201 (collectScores_cons t012212211 collectScores_nil)) rfl

theorem v012212021 : readBoardAux P2 4 (⟨N0, N1, N2, N2, N1, N2, N0, N2, N1⟩ : Grid) P1 = some (ZM, some M00) :=
  readBoardAux_step P2 3 (⟨N0, N1, N2, N2, N1, N2, N0, N2, N1⟩ : Grid) P1 [M00, M20] rfl rfl
    (collectScores_cons t112212021 (collectScores_cons v012212121 collectScores_nil)) rfl

theorem v012212001 : readBoardAux P2 5 (⟨N0, N1, N2, N2, N1, N2, N0, N0, N1⟩ : Grid) P2 = some (ZM, some M00) :=
  readBoardAux_step P2 4 (⟨N0, N1, N2, N2, N1, N2, N0, N0, N1⟩ : Grid) P2 [M00, M20, M21] rfl rfl
    (collectScores_cons v212212001 (collectScores_cons v012212201 (collectScores_cons v012212021 collectScores_nil))) rfl

theorem v012212000 : readBoardAux P2 6 (⟨N0, N1, N2, N2, N1, N2, N0, N0, N0⟩ : Grid) P1 = some (ZM, some M21) :=
  readBoardAux_step P2 5 (⟨N0, N1, N2, N2, N1, N2, N0, N0, N0⟩ : Grid) P1 [M00, M20, M21, M22] rfl rfl
    (collectScores_cons v112212000 (collectScores_cons v012212100 (collectScores_cons t012212010 (collectScores_cons v012212001 collectScores_nil)))) rfl

theorem v012211221 : readBoardAux P2 3 (⟨N0, N1, N2, N2, N1, N1, N2, N2, N1⟩ : Grid) P2 = some (ZP, some M00) :=
  readBoardAux_step P2 2 (⟨N0, N1, N2, N2, N1, N1, N2, N2, N1⟩ : Grid) P2 [M00] rfl rfl
    (collectScores_cons t212211221 collectScores_nil) rfl

theorem v012211220 : readBoardAux P2 4 (⟨N0, N1, N2, N2, N1, N1, N2, N2, N0⟩ : Grid) P1 = some (ZP, some M00) :=
  readBoardAux_step P2 3 (⟨N0, N1, N2, N2, N1, N1, N2, N2, N0⟩ : Grid) P1 [M00, M22] rfl rfl
    (collectScores_cons v112211220 (collectScores_cons v012211221 collectScores_nil)) rfl

theorem t012211212 : readBoardAux P2 3 (⟨N0, N1, N2, N2, N1, N1, N2, N1, N2⟩ : Grid) P2 = some (ZM, none) :=
  rfl

theorem v012211202 : readBoardAux P2 4 (⟨N0, N1, N2, N2, N1, N1, N2, N0, N2⟩ : Grid) P1 = some (ZM, some M21) :=
  readBoardAux_step P2 3 (⟨N0, N1, N2, N2, N1, N1, N2, N0, N2⟩ : Grid) P1 [M00, M21] rfl rfl
    (collectScores_cons v112211202 (collectScores_cons t012211212 collectScores_nil)) rfl

theorem v012211200 : readBoardAux P2 5 (⟨N0, N1, N2, N2, N1, N1, N2, N0, N0⟩ : Grid) P2 = some (ZP, some M00) :=
  readBoardAux_step P2 4 (⟨N0, N1, N2, N2, N1, N1, N2, N0, N0⟩ : Grid) P2 [M00, M21, M22] rfl rfl
    (collectScores_cons t212211200 (collectScores_cons v012211220 (collectScores_cons v012211202 collectScores_nil))) rfl

theorem t012210210 : readBoardAux P2 5 (⟨N0, N1, N2, N2, N1, N0, N2, N1, N0⟩ : Grid) P2 = some (ZM, none) :=
  rfl

theorem v012210221 : readBoardAux P2 4 (⟨N0, N1, N2, N2, N1, N0, N2, N2, N1⟩ : Grid) P1 = some (ZM, some M00) :=
  readBoardAux_step P2 3 (⟨N0, N1, N2, N2, N1, N0, N2, N2, N1⟩ : Grid) P1 [M00, M12] rfl rfl
    (collectScores_cons t112210221 (collectScores_cons v012211221 collectScores_nil)) rfl

theorem v012210201 : readBoardAux P2 5 (⟨N0, N1, N2, N2, N1, N0, N2, N0, N1⟩ : Grid) P2 = some (ZP, some M00) :=
  readBoardAux_step P2 4 (⟨N0, N1, N2, N2, N1, N0, N2, N0, N1⟩ : Grid) P2 [M00, M12, M21] rfl rfl
    (collectScores_cons t212210201 (collectScores_cons v012212201 (collectScores_cons v012210221 collectScores_nil))) rfl

theorem v012210200 : readBoardAux P2 6 (⟨N0, N1, N2, N2, N1, N0, N2, N0, N0⟩ : Grid) P1 = some (ZM, some M00) :=
  readBoardAux_step P2 5 (⟨N0, N1, N2, N2, N1, N0, N2, N0, N0⟩ : Grid) P1 [M00, M12, M21, M22] rfl rfl
    (collectScores_cons v112210200 (collectScores_cons v012211200 (collectScores_cons t012210210 (collectScores_cons v012210201 collectScores_nil)))) rfl

theorem v012211122 : readBoardAux P2 3 (⟨N0, N1, N2, N2, N1, N1, N1, N2, N2⟩ : Grid) P2 = some (Z0, some M00) :=
  readBoardAux_step P2 2 (⟨N0, N1, N2, N2, N1, N1, N1, N2, N2⟩ : Grid) P2 [M00] rfl rfl
    (collectScores_cons t212211122 collectScores_nil) rfl

theorem v012211022 : readBoardAux P2 4 (⟨N0, N1, N2, N2, N1, N1, N0, N2, N2⟩ : Grid) P1 = some (Z0, some M20) :=
  readBoardAux_step P2 3 (⟨N0, N1, N2, N2, N1, N1, N0, N2, N2⟩ : Grid) P1 [M00, M20] rfl rfl
    (collectScores_cons v112211022 (collectScores_cons v012211122 collectScores_nil)) rfl

theorem v012211020 : readBoardAux P2 5 (⟨N0, N1, N2, N2, N1, N1, N0, N2, N0⟩ : Grid) P2 = some (ZP, some M20) :=
  readBoardAux_step P2 4 (⟨N0, N1, N2, N2, N1, N1, N0, N2, N0⟩ : Grid) P2 [M00, M20, M22] rfl rfl
    (collectScores_cons v212211020 (collectScores_cons v012211220 (collectScores_cons v012211022 collectScores_nil))) rfl

theorem v012210122 : readBoardAux P2 4 (⟨N0, N1, N2, N2, N1, N0, N1, N2, N2⟩ : Grid) P1 = some (Z0, some M12) :=
  readBoardAux_step P2 3 (⟨N0, N1, N2, N2, N1, N0, N1, N2, N2⟩ : Grid) P1 [M00, M12] rfl rfl
    (collectScores_cons v112210122 (collectScores_cons v012211122 collectScores_nil)) rfl

theorem v012210120 : readBoardAux P2 5 (⟨N0, N1, N2, N2, N1, N0, N1, N2, N0⟩ : Grid) P2 = some (Z0, some M00) :=
  readBoardAux_step P2 4 (⟨N0, N1, N2, N2, N1, N0, N1, N2, N0⟩ : Grid) P2 [M00, M12, M22] rfl rfl
    (collectScores_cons v212210120 (collectScores_cons v012212120 (collectScores_cons v012210122 collectScores_nil))) rfl

theorem v012210021 : readBoardAux P2 5 (⟨N0, N1, N2, N2, N1, N0, N0, N2, N1⟩ : Grid) P2 = some (Z0, some M00) :=
  readBoardAux_step P2 4 (⟨N0, N1, N2, N2, N1, N0, N0, N2, N1⟩ : Grid) P2 [M00, M12, M20] rfl rfl
    (collectScores_cons v212210021 (collectScores_cons v012212021 (collectScores_cons v012210221 collectScores_nil))) rfl

theorem v012210020 : readBoardAux P2 6 (⟨N0, N1, N2, N2, N1, N0, N0, N2, N0⟩ : Grid) P1 = some (Z0, some M20) :=
  readBoardAux_step P2 5 (⟨N0, N1, N2, N2, N1, N0, N0, N2, N0⟩ : Grid) P1 [M00, M12, M20, M22] rfl rfl
    (collectScores_cons v112210020 (collectScores_cons v012211020 (collectScores_cons v012210120 (collectScores_cons v012210021 collectScores_nil)))) rfl

theorem v012211002 : readBoardAux P2 5 (⟨N0, N1, N2, N2, N1, N1, N0, N0, N2⟩ : Grid) P2 = some (Z0, some M21) :=
  readBoardAux_step P2 4 (⟨N0, N1, N2, N2, N1, N1, N0, N0, N2⟩ : Grid) P2 [M00, M20, M21] rfl rfl
    (collectScores_cons v212211002 (collectScores_cons v012211202 (collectScores_cons v012211022 collectScores_nil))) rfl

theorem v012210102 : readBoardAux P2 5 (⟨N0, N1, N2, N2, N1, N0, N1, N0, N2⟩ : Grid) P2 = some (ZP, some M12) :=
  readBoardAux_step P2 4 (⟨N0, N1, N2, N2, N1, N0, N1, N0, N2⟩ : Grid) P2 [M00, M12, M21] rfl rfl
    (collectScores_cons v212210102 (collectScores_cons t012212102 (collectScores_cons v012210122 collectScores_nil))) rfl

theorem t012210012 : readBoardAux P2 5 (⟨N0, N1, N2, N2, N1, N0, N0, N1, N2⟩ : Grid) P2 = some (ZM, none) :=
  rfl

theorem v012210002 : readBoardAux P2 6 (⟨N0, N1, N2, N2, N1, N0, N0, N0, N2⟩ : Grid) P1 = some (ZM, some M21) :=
  readBoardAux_step P2 5 (⟨N0, N1, N2, N2, N1, N0, N0, N0, N2⟩ : Grid) P1 [M00, M12, M20, M21] rfl rfl
    (collectScores_cons v112210002 (collectScores_cons v012211002 (collectScores_cons v012210102 (collectScores_cons t012210012 collectScores_nil)))) rfl

theorem v012210000 : readBoardAux P2 7 (⟨N0, N1, N2, N2, N1, N0, N0, N0, N0⟩ : Grid) P2 = some (Z0, some M21) :=
  readBoardAux_step P2 6 (⟨N0, N1, N2, N2, N1, N0, N0, N0, N0⟩ : Grid) P2 [M00, M12, M20, M21, M22] rfl rfl
    (collectScores_cons v212210000 (collectScores_cons v012212000 (collectScores_cons v012210200 (collectScores_cons v012210020 (collectScores_cons v012210002 collectScores_nil))))) rfl

theorem v012221121 : readBoardAux P2 3 (⟨N0, N1, N2, N2, N2, N1, N1, N2, N1⟩ : Grid) P2 = some (Z0, some M00) :=
  readBoardAux_step P2 2 (⟨N0, N1, N2, N2, N2, N1, N1, N2, N1⟩ : Grid) P2 [M00] rfl rfl
    (collectScores_cons t212221121 collectScores_nil) rfl

theorem v012221120 : readBoardAux P2 4 (⟨N0, N1, N2, N2, N2, N1, N1, N2, N0⟩ : Grid) P1 = some (Z0, some M00) :=
  readBoardAux_step P2 3 (⟨N0, N1, N2, N2, N2, N1, N1, N2, N0⟩ : Grid) P1 [M00, M22] rfl rfl
    (collectScores_cons v112221120 (collectScores_cons v012221121 collectScores_nil)) rfl

theorem v012221112 : readBoardAux P2 3 (⟨N0, N1, N2, N2, N2, N1, N1, N1, N2⟩ : Grid) P2 = some (ZP, some M00) :=
  readBoardAux_step P2 2 (⟨N0, N1, N2, N2, N2, N1, N1, N1, N2⟩ : Grid) P2 [M00] rfl rfl
    (collectScores_cons t212221112 collectScores_nil) rfl

theorem v012221102 : readBoardAux P2 4 (⟨N0, N1, N2, N2, N2, N1, N1, N0, N2⟩ : Grid) P1 = some (Z0, some M00) :=
  readBoardAux_step P2 3 (⟨N0, N1, N2, N2, N2, N1, N1, N0, N2⟩ : Grid) P1 [M00, M21] rfl rfl
    (collectScores_cons v112221102 (collectScores_cons v012221112 collectScores_nil)) rfl

theorem v012221100 : readBoardAux P2 5 (⟨N0, N1, N2, N2, N2, N1, N1, N0, N0⟩ : Grid) P2 = some (Z0, some M00) :=
  readBoardAux_step P2 4 (⟨N0, N1, N2, N2, N2, N1, N1, N0, N0⟩ : Grid) P2 [M00, M21, M22] rfl rfl
    (collectScores_cons v212221100 (collectScores_cons v012221120 (collectScores_cons v012221102 collectScores_nil))) rfl

theorem t012221210 : readBoardAux P2 4 (⟨N0, N1, N2, N2, N2, N1, N2, N1, N0⟩ : Grid) P1 = some (ZP, none) :=
  rfl

theorem v012221012 : readBoardAux P2 4 (⟨N0, N1, N2, N2, N2, N1, N0, N1, N2⟩ : Grid) P1 = some (ZP, some M00) :=
  readBoardAux_step P2 3 (⟨N0, N1, N2, N2, N2, N1, N0, N1, N2⟩ : Grid) P1 [M00, M20] rfl rfl
    (collectScores_cons v112221012 (collectScores_cons v012221112 collectScores_nil)) rfl

theorem v012221010 : readBoardAux P2 5 (⟨N0, N1, N2, N2, N2, N1, N0, N1, N0⟩ : Grid) P2 = some (ZP, some M00) :=
  readBoardAux_step P2 4 (⟨N0, N1, N2, N2, N2, N1, N0, N1, N0⟩ : Grid) P2 [M00, M20, M22] rfl rfl
    (collectScores_cons v212221010 (collectScores_cons t012221210 (collectScores_cons v012221012 collectScores_nil))) rfl

theorem t012221201 : readBoardAux P2 4 (⟨N0, N1, N2, N2, N2, N1, N2, N0, N1⟩ : Grid) P1 = some (ZP, none) :=
  rfl

theorem v012221021 : readBoardAux P2 4 (⟨N0, N1, N2, N2, N2, N1, N0, N2, N1⟩ : Grid) P1 = some (Z0, some M20) :=
  readBoardAux_step P2 3 (⟨N0, N1, N2, N2, N2, N1, N0, N2, N1⟩ : Grid) P1 [M00, M20] rfl rfl
    (collectScores_cons v112221021 (collectScores_cons v012221121 collectScores_nil)) rfl

theorem v012221001 : readBoardAux P2 5 (⟨N0, N1, N2, N2, N2, N1, N0, N0, N1⟩ : Grid) P2 = some (ZP, some M20) :=
  readBoardAux_step P2 4 (⟨N0, N1, N2, N2, N2, N1, N0, N0, N1⟩ : Grid) P2 [M00, M20, M21] rfl rfl
    (collectScores_cons v212221001 (collectScores_cons t012221201 (collectScores_cons v012221021 collectScores_nil))) rfl

theorem v012221000 : readBoardAux P2 6 (⟨N0, N1, N2, N2, N2, N1, N0, N0, N0⟩ : Grid) P1 = some (Z0, some M20) :=
  readBoardAux_step P2 5 (⟨N0, N1, N2, N2, N2, N1, N0, N0, N0⟩ : Grid) P1 [M00, M20, M21, M22] rfl rfl
    (collectScores_cons v112221000 (collectScores_cons v012221100 (collectScores_cons v012221010 (collectScores_cons v012221001 collectScores_nil)))) rfl

theorem v012201212 : readBoardAux P2 4 (⟨N0, N1, N2, N2, N0, N1, N2, N1, N2⟩ : Grid) P1 = some (ZM, some M11) :=
  readBoardAux_step P2 3 (⟨N0, N1, N2, N2, N0, N1, N2, N1, N2⟩ : Grid) P1 [M00, M11] rfl rfl
    (collectScores_cons v112201212 (collectScores_cons t012211212 collectScores_nil)) rfl

theorem v012201210 : readBoardAux P2 5 (⟨N0, N1, N2, N2, N0, N1, N2, N1, N0⟩ : Grid) P2 = some (ZP, some M00) :=
  readBoardAux_step P2 4 (⟨N0, N1, N2, N2, N0, N1, N2, N1, N0⟩ : Grid) P2 [M00, M11, M22] rfl rfl
    (collectScores_cons t212201210 (collectScores_cons t012221210 (collectScores_cons v012201212 collectScores_nil))) rfl

theorem v012201221 : readBoardAux P2 4 (⟨N0, N1, N2, N2, N0, N1, N2, N2, N1⟩ : Grid) P1 = some (ZP, some M00) :=
  readBoardAux_step P2 3 (⟨N0, N1, N2, N2, N0, N1, N2, N2, N1⟩ : Grid) P1 [M00, M11] rfl rfl
    (collectScores_cons v112201221 (collectScores_cons v012211221 collectScores_nil)) rfl

theorem v012201201 : readBoardAux P2 5 (⟨N0, N1, N2, N2, N0, N1, N2, N0, N1⟩ : Grid) P2 = some (ZP, some M00) :=
  readBoardAux_step P2 4 (⟨N0, N1, N2, N2, N0, N1, N2, N0, N1⟩ : Grid) P2 [M00, M11, M21] rfl rfl
    (collectScores_cons t212201201 (collectScores_cons t012221201 (collectScores_cons v012201221 collectScores_nil))) rfl

theorem v012201200 : readBoardAux P2 6 (⟨N0, N1, N2, N2, N0, N1, N2, N0, N0⟩ : Grid) P1 = some (ZP, some M00) :=
  readBoardAux_step P2 5 (⟨N0, N1, N2, N2, N0, N1, N2, N0, N0⟩ : Grid) P1 [M00, M11, M21, M22] rfl rfl
    (collectScores_cons v112201200 (collectScores_cons v012211200 (collectScores_cons v012201210 (collectScores_cons v012201201 collectScores_nil)))) rfl

theorem v012201122 : readBoardAux P2 4 (⟨N0, N1, N2, N2, N0, N1, N1, N2, N2⟩ : Grid) P1 = some (Z0, some M00) :=
  readBoardAux_step P2 3 (⟨N0, N1, N2, N2, N0, N1, N1, N2, N2⟩ : Grid) P1 [M00, M11] rfl rfl
    (collectScores_cons v112201122 (collectScores_cons v012211122 collectScores_nil)) rfl

theorem v012201120 : readBoardAux P2 5 (⟨N0, N1, N2, N2, N0, N1, N1, N2, N0⟩ : Grid) P2 = some (Z0, some M00) :=
  readBoardAux_step P2 4 (⟨N0, N1, N2, N2, N0, N1, N1, N2, N0⟩ : Grid) P2 [M00, M11, M22] rfl rfl
    (collectScores_cons v212201120 (collectScores_cons v012221120 (collectScores_cons v012201122 collectScores_nil))) rfl

theorem v012201021 : readBoardAux P2 5 (⟨N0, N1, N2, N2, N0, N1, N0, N2, N1⟩ : Grid) P2 = some (ZP, some M20) :=
  readBoardAux_step P2 4 (⟨N0, N1, N2, N2, N0, N1, N0, N2, N1⟩ : Grid) P2 [M00, M11, M20] rfl rfl
    (collectScores_cons v212201021 (collectScores_cons v012221021 (collectScores_cons v012201221 collectScores_nil))) rfl

theorem v012201020 : readBoardAux P2 6 (⟨N0, N1, N2, N2, N0, N1, N0, N2, N0⟩ : Grid) P1 = some (Z0, some M20) :=
  readBoardAux_step P2 5 (⟨N0, N1, N2, N2, N0, N1, N0, N2, N0⟩ : Grid) P1 [M00, M11, M20, M22] rfl rfl
    (collectScores_cons v112201020 (collectScores_cons v012211020 (collectScores_cons v012201120 (collectScores_cons v012201021 collectScores_nil)))) rfl

theorem v012201102 : readBoardAux P2 5 (⟨N0, N1, N2, N2, N0, N1, N1, N0, N2⟩ : Grid) P2 = some (Z0, some M00) :=
  readBoardAux_step P2 4 (⟨N0, N1, N2, N2, N0, N1, N1, N0, N2⟩ : Grid) P2 [M00, M11, M21] rfl rfl
    (collectScores_cons v212201102 (collectScores_cons v012221102 (collectScores_cons v012201122 collectScores_nil))) rfl

theorem v012201012 : readBoardAux P2 5 (⟨N0, N1, N2, N2, N0, N1, N0, N1, N2⟩ : Grid) P2 = some (ZP, some M11) :=
  readBoardAux_step P2 4 (⟨N0, N1, N2, N2, N0, N1, N0, N1, N2⟩ : Grid) P2 [M00, M11, M20] rfl rfl
    (collectScores_cons v212201012 (collectScores_cons v012221012 (collectScores_cons v012201212 collectScores_nil))) rfl

theorem v012201002 : readBoardAux P2 6 (⟨N0, N1, N2, N2, N0, N1, N0, N0, N2⟩ : Grid) P1 = some (Z0, some M11) :=
  readBoardAux_step P2 5 (⟨N0, N1, N2, N2, N0, N1, N0, N0, N2⟩ : Grid) P1 [M00, M11, M20, M21] rfl rfl
    (collectScores_cons v112201002 (collectScores_cons v012211002 (collectScores_cons v012201102 (collectScores_cons v012201012 collectScores_nil)))) rfl

theorem v012201000 : readBoardAux P2 7 (⟨N0, N1, N2, N2, N0, N1, N0, N0, N0⟩ : Grid) P2 = some (ZP, some M20) :=
  readBoardAux_step P2 6 (⟨N0, N1, N2, N2, N0, N1, N0, N0, N0⟩ : Grid) P2 [M00, M11, M20, M21, M22] rfl rfl
    (collectScores_cons v212201000 (collectScores_cons v012221000 (collectScores_cons v012201200 (collectScores_cons v012201020 (collectScores_cons v012201002 collectScores_nil))))) rfl

theorem t012222110 : readBoardAux P2 4 (⟨N0, N1, N2, N2, N2, N2, N1, N1, N0⟩ : Grid) P1 = some (ZP, none) :=
  rfl

theorem v012220112 : readBoardAux P2 4 (⟨N0, N1, N2, N2, N2, N0, N1, N1, N2⟩ : Grid) P1 = some (ZP, some M00) :=
  readBoardAux_step P2 3 (⟨N0, N1, N2, N2, N2, N0, N1, N1, N2⟩ : Grid) P1 [M00, M12] rfl rfl
    (collectScores_cons v112220112 (collectScores_cons v012221112 collectScores_nil)) rfl

theorem v012220110 : readBoardAux P2 5 (⟨N0, N1, N2, N2, N2, N0, N1, N1, N0⟩ : Grid) P2 = some (ZP, some M12) :=
  readBoardAux_step P2 4 (⟨N0, N1, N2, N2, N2, N0, N1, N1, N0⟩ : Grid) P2 [M00, M12, M22] rfl rfl
    (collectScores_cons v212220110 (collectScores_cons t012222110 (collectScores_cons v012220112 collectScores_nil))) rfl

theorem t012222101 : readBoardAux P2 4 (⟨N0, N1, N2, N2, N2, N2, N1, N0, N1⟩ : Grid) P1 = some (ZP, none) :=
  rfl

theorem v012220121 : readBoardAux P2 4 (⟨N0, N1, N2, N2, N2, N0, N1, N2, N1⟩ : Grid) P1 = some (Z0, some M12) :=
  readBoardAux_step P2 3 (⟨N0, N1, N2, N2, N2, N0, N1, N2, N1⟩ : Grid) P1 [M00, M12] rfl rfl
    (collectScores_cons v112220121 (collectScores_cons v012221121 collectScores_nil)) rfl

theorem v012220101 : readBoardAux P2 5 (⟨N0, N1, N2, N2, N2, N0, N1, N0, N1⟩ : Grid) P2 = some (ZP, some M12) :=
  readBoardAux_step P2 4 (⟨N0, N1, N2, N2, N2, N0, N1, N0, N1⟩ : Grid) P2 [M00, M12, M21] rfl rfl
    (collectScores_cons v212220101 (collectScores_cons t012222101 (collectScores_cons v012220121 collectScores_nil))) rfl

theorem v012220100 : readBoardAux P2 6 (⟨N0, N1, N2, N2, N2, N0, N1, N0, N0⟩ : Grid) P1 = some (Z0, some M12) :=
  readBoardAux_step P2 5 (⟨N0, N1, N2, N2, N2, N0, N1, N0, N0⟩ : Grid) P1 [M00, M12, M21, M22] rfl rfl
    (collectScores_cons v112220100 (collectScores_cons v012221100 (collectScores_cons v012220110 (collectScores_cons v012220101 collectScores_nil)))) rfl

theorem t012202112 : readBoardAux P2 4 (⟨N0, N1, N2, N2, N0, N2, N1, N1, N2⟩ : Grid) P1 = some (ZP, none) :=
  rfl

theorem v012202110 : readBoardAux P2 5 (⟨N0, N1, N2, N2, N0, N2, N1, N1, N0⟩ : Grid) P2 = some (ZP, some M11) :=
  readBoardAux_step P2 4 (⟨N0, N1, N2, N2, N0, N2, N1, N1, N0⟩ : Grid) P2 [M00, M11, M22] rfl rfl
    (collectScores_cons v212202110 (collectScores_cons t012222110 (collectScores_cons t012202112 collectScores_nil))) rfl

theorem v012202121 : readBoardAux P2 4 (⟨N0, N1, N2, N2, N0, N2, N1, N2, N1⟩ : Grid) P1 = some (Z0, some M11) :=
  readBoardAux_step P2 3 (⟨N0, N1, N2, N2, N0, N2, N1, N2, N1⟩ : Grid) P1 [M00, M11] rfl rfl
    (collectScores_cons v112202121 (collectScores_cons v012212121 collectScores_nil)) rfl

theorem v012202101 : readBoardAux P2 5 (⟨N0, N1, N2, N2, N0, N2, N1, N0, N1⟩ : Grid) P2 = some (ZP, some M11) :=
  readBoardAux_step P2 4 (⟨N0, N1, N2, N2, N0, N2, N1, N0, N1⟩ : Grid) P2 [M00, M11, M21] rfl rfl
    (collectScores_cons v212202101 (collectScores_cons t012222101 (collectScores_cons v012202121 collectScores_nil))) rfl

theorem v012202100 : readBoardAux P2 6 (⟨N0, N1, N2, N2, N0, N2, N1, N0, N0⟩ : Grid) P1 = some (ZP, some M00) :=
  readBoardAux_step P2 5 (⟨N0, N1, N2, N2, N0, N2, N1, N0, N0⟩ : Grid) P1 [M00, M11, M21, M22] rfl rfl
    (collectScores_cons v112202100 (collectScores_cons v012212100 (collectScores_cons v012202110 (collectScores_cons v012202101 collectScores_nil)))) rfl

theorem v012200121 : readBoardAux P2 5 (⟨N0, N1, N2, N2, N0, N0, N1, N2, N1⟩ : Grid) P2 = some (Z0, some M00) :=
  readBoardAux_step P2 4 (⟨N0, N1, N2, N2, N0, N0, N1, N2, N1⟩ : Grid) P2 [M00, M11, M12] rfl rfl
    (collectScores_cons v212200121 (collectScores_cons v012220121 (collectScores_cons v012202121 collectScores_nil))) rfl

theorem v012200120 : readBoardAux P2 6 (⟨N0, N1, N2, N2, N0, N0, N1, N2, N0⟩ : Grid) P1 = some (Z0, some M11) :=
  readBoardAux_step P2 5 (⟨N0, N1, N2, N2, N0, N0, N1, N2, N0⟩ : Grid) P1 [M00, M11, M12, M22] rfl rfl
    (collectScores_cons v112200120 (collectScores_cons v012210120 (collectScores_cons v012201120 (collectScores_cons v012200121 collectScores_nil)))) rfl

theorem v012200112 : readBoardAux P2 5 (⟨N0, N1, N2, N2, N0, N0, N1, N1, N2⟩ : Grid) P2 = some (ZP, some M11) :=
  readBoardAux_step P2 4 (⟨N0, N1, N2, N2, N0, N0, N1, N1, N2⟩ : Grid) P2 [M00, M11, M12] rfl rfl
    (collectScores_cons v212200112 (collectScores_cons v012220112 (collectScores_cons t012202112 collectScores_nil))) rfl

theorem v012200102 : readBoardAux P2 6 (⟨N0, N1, N2, N2, N0, N0, N1, N0, N2⟩ : Grid) P1 = some (Z0, some M12) :=
  readBoardAux_step P2 5 (⟨N0, N1, N2, N2, N0, N0, N1, N0, N2⟩ : Grid) P1 [M00, M11, M12, M21] rfl rfl
    (collectScores_cons v112200102 (collectScores_cons v012210102 (collectScores_cons v012201102 (collectScores_cons v012200112 collectScores_nil)))) rfl

theorem v012200100 : readBoardAux P2 7 (⟨N0, N1, N2, N2, N0, N0, N1, N0, N0⟩ : Grid) P2 = some (ZP, some M12) :=
  readBoardAux_step P2 6 (⟨N0, N1, N2, N2, N0, N0, N1, N0, N0⟩ : Grid) P2 [M00, M11, M12, M21, M22] rfl rfl
    (collectScores_cons v212200100 (collectScores_cons v012220100 (collectScores_cons v012202100 (collectScores_cons v012200120 (collectScores_cons v012200102 collectScores_nil))))) rfl

theorem t012222011 : readBoardAux P2 4 (⟨N0, N1, N2, N2, N2, N2, N0, N1, N1⟩ : Grid) P1 = some (ZP, none) :=
  rfl

theorem t012220211 : readBoardAux P2 4 (⟨N0, N1, N2, N2, N2, N0, N2, N1, N1⟩ : Grid) P1 = some (ZP, none) :=
  rfl

theorem v012220011 : readBoardAux P2 5 (⟨N0, N1, N2, N2, N2, N0, N0, N1, N1⟩ : Grid) P2 = some (ZP, some M12) :=
  readBoardAux_step P2 4 (⟨N0, N1, N2, N2, N2, N0, N0, N1, N1⟩ : Grid) P2 [M00, M12, M20] rfl rfl
    (collectScores_cons v212220011 (collectScores_cons t012222011 (collectScores_cons t012220211 collectScores_nil))) rfl

theorem v012220010 : readBoardAux P2 6 (⟨N0, N1, N2, N2, N2, N0, N0, N1, N0⟩ : Grid) P1 = some (ZP, some M00) :=
  readBoardAux_step P2 5 (⟨N0, N1, N2, N2, N2, N0, N0, N1, N0⟩ : Grid) P1 [M00, M12, M20, M22] rfl rfl
    (collectScores_cons v112220010 (collectScores_cons v012221010 (collectScores_cons v012220110 (collectScores_cons v012220011 collectScores_nil)))) rfl

theorem v012202211 : readBoardAux P2 4 (⟨N0, N1, N2, N2, N0, N2, N2, N1, N1⟩ : Grid) P1 = some (ZM, some M11) :=
  readBoardAux_step P2 3 (⟨N0, N1, N2, N2, N0, N2, N2, N1, N1⟩ : Grid) P1 [M00, M11] rfl rfl
    (collectScores_cons v112202211 (collectScores_cons t012212211 collectScores_nil)) rfl

theorem v012202011 : readBoardAux P2 5 (⟨N0, N1, N2, N2, N0, N2, N0, N1, N1⟩ : Grid) P2 = some (ZP, some M11) :=
  readBoardAux_step P2 4 (⟨N0, N1, N2, N2, N0, N2, N0, N1, N1⟩ : Grid) P2 [M00, M11, M20] rfl rfl
    (collectScores_cons v212202011 (collectScores_cons t012222011 (collectScores_cons v012202211 collectScores_nil))) rfl

theorem v012202010 : readBoardAux P2 6 (⟨N0, N1, N2, N2, N0, N2, N0, N1, N0⟩ : Grid) P1 = some (ZM, some M11) :=
  readBoardAux_step P2 5 (⟨N0, N1, N2, N2, N0, N2, N0, N1, N0⟩ : Grid) P1 [M00, M11, M20, M22] rfl rfl
    (collectScores_cons v112202010 (collectScores_cons t012212010 (collectScores_cons v012202110 (collectScores_cons v012202011 collectScores_nil)))) rfl

theorem v012200211 : readBoardAux P2 5 (⟨N0, N1, N2, N2, N0, N0, N2, N1, N1⟩ : Grid) P2 = some (ZP, some M00) :=
  readBoardAux_step P2 4 (⟨N0, N1, N2, N2, N0, N0, N2, N1, N1⟩ : Grid) P2 [M00, M11, M12] rfl rfl
    (collectScores_cons t212200211 (collectScores_cons t012220211 (collectScores_cons v012202211 collectScores_nil))) rfl

theorem v012200210 : readBoardAux P2 6 (⟨N0, N1, N2, N2, N0, N0, N2, N1, N0⟩ : Grid) P1 = some (ZM, some M11) :=
  readBoardAux_step P2 5 (⟨N0, N1, N2, N2, N0, N0, N2, N1, N0⟩ : Grid) P1 [M00, M11, M12, M22] rfl rfl
    (collectScores_cons v112200210 (collectScores_cons t012210210 (collectScores_cons v012201210 (collectScores_cons v012200211 collectScores_nil)))) rfl

theorem v012200012 : readBoardAux P2 6 (⟨N0, N1, N2, N2, N0, N0, N0, N1, N2⟩ : Grid) P1 = some (ZM, some M11) :=
  readBoardAux_step P2 5 (⟨N0, N1, N2, N2, N0, N0, N0, N1, N2⟩ : Grid) P1 [M00, M11, M12, M20] rfl rfl
    (collectScores_cons v112200012 (collectScores_cons t012210012 (collectScores_cons v012201012 (collectScores_cons v012200112 collectScores_nil)))) rfl

theorem v012200010 : readBoardAux P2 7 (⟨N0, N1, N2, N2, N0, N0, N0, N1, N0⟩ : Grid) P2 = some (ZP, some M11) :=
  readBoardAux_step P2 6 (⟨N0, N1, N2, N2, N0, N0, N0, N1, N0⟩ : Grid) P2 [M00, M11, M12, M20, M22] rfl rfl
    (collectScores_cons v212200010 (collectScores_cons v012220010 (collectScores_cons v012202010 (collectScores_cons v012200210 (collectScores_cons v012200012 collectScores_nil))))) rfl

theorem v012220001 : readBoardAux P2 6 (⟨N0, N1, N2, N2, N2, N0, N0, N0, N1⟩ : Grid) P1 = some (ZP, some M00) :=
  readBoardAux_step P2 5 (⟨N0, N1, N2, N2, N2, N0, N0, N0, N1⟩ : Grid) P1 [M00, M12, M20, M21] rfl rfl
    (collectScores_cons v112220001 (collectScores_cons v012221001 (collectScores_cons v012220101 (collectScores_cons v012220011 collectScores_nil)))) rfl

theorem v012202001 : readBoardAux P2 6 (⟨N0, N1, N2, N2, N0, N2, N0, N0, N1⟩ : Grid) P1 = some (ZM, some M11) :=
  readBoardAux_step P2 5 (⟨N0, N1, N2, N2, N0, N2, N0, N0, N1⟩ : Grid) P1 [M00, M11, M20, M21] rfl rfl
    (collectScores_cons v112202001 (collectScores_cons v012212001 (collectScores_cons v012202101 (collectScores_cons v012202011 collectScores_nil)))) rfl

theorem v012200201 : readBoardAux P2 6 (⟨N0, N1, N2, N2, N0, N0, N2, N0, N1⟩ : Grid) P1 = some (ZP, some M00) :=
  readBoardAux_step P2 5 (⟨N0, N1, N2, N2, N0, N0, N2, N0, N1⟩ : Grid) P1 [M00, M11, M12, M21] rfl rfl
    (collectScores_cons v112200201 (collectScores_cons v012210201 (collectScores_cons v012201201 (collectScores_cons v012200211 collectScores_nil)))) rfl

theorem v012200021 : readBoardAux P2 6 (⟨N0, N1, N2, N2, N0, N0, N0, N2, N1⟩ : Grid) P1 = some (Z0, some M11) :=
  readBoardAux_step P2 5 (⟨N0, N1, N2, N2, N0, N0, N0, N2, N1⟩ : Grid) P1 [M00, M11, M12, M20] rfl rfl
    (collectScores_cons v112200021 (collectScores_cons v012210021 (collectScores_cons v012201021 (collectScores_cons v012200121 collectScores_nil)))) rfl

theorem v012200001 : readBoardAux P2 7 (⟨N0, N1, N2, N2, N0, N0, N0, N0, N1⟩ : Grid) P2 = some (ZP, some M11) :=
  readBoardAux_step P2 6 (⟨N0, N1, N2, N2, N0, N0, N0, N0, N1⟩ : Grid) P2 [M00, M11, M12, M20, M21] rfl rfl
    (collectScores_cons v212200001 (collectScores_cons v012220001 (collectScores_cons v012202001 (collectScores_cons v012200201 (collectScores_cons v012200021 collectScores_nil))))) rfl

theorem v012200000 : readBoardAux P2 8 (⟨N0, N1, N2, N2, N0, N0, N0, N0, N0⟩ : Grid) P1 = some (Z0, some M11) :=
  readBoardAux_step P2 7 (⟨N0, N1, N2, N2, N0, N0, N0, N0, N0⟩ : Grid) P1 [M00, M11, M12, M20, M21, M22] rfl rfl
    (collectScores_cons v112200000 (collectScores_cons v012210000 (collectScores_cons v012201000 (collectScores_cons v012200100 (collectScores_cons v012200010 (collectScores_cons v012200001 collectScores_nil)))))) rfl

theorem v012122121 : readBoardAux P2 3 (⟨N0, N1, N2, N1, N2, N2, N1, N2, N1⟩ : Grid) P2 = some (Z0, some M00) :=
  readBoardAux_step P2 2 (⟨N0, N1, N2, N1, N2, N2, N1, N2, N1⟩ : Grid) P2 [M00] rfl rfl
    (collectScores_cons t212122121 collectScores_nil) rfl

theorem v012122120 : readBoardAux P2 4 (⟨N0, N1, N2, N1, N2, N2, N1, N2, N0⟩ : Grid) P1 = some (ZM, some M00) :=
  readBoardAux_step P2 3 (⟨N0, N1, N2, N1, N2, N2, N1, N2, N0⟩ : Grid) P1 [M00, M22] rfl rfl
    (collectScores_cons t112122120 (collectScores_cons v012122121 collectScores_nil)) rfl

theorem t012122102 : readBoardAux P2 4 (⟨N0, N1, N2, N1, N2, N2, N1, N0, N2⟩ : Grid) P1 = some (ZP, none) :=
  rfl

theorem v012122100 : readBoardAux P2 5 (⟨N0, N1, N2, N1, N2, N2, N1, N0, N0⟩ : Grid) P2 = some (ZP, some M22) :=
  readBoardAux_step P2 4 (⟨N0, N1, N2, N1, N2, N2, N1, N0, N0⟩ : Grid) P2 [M00, M21, M22] rfl rfl
    (collectScores_cons v212122100 (collectScores_cons v012122120 (collectScores_cons t012122102 collectScores_nil))) rfl

theorem t012122210 : readBoardAux P2 4 (⟨N0, N1, N2, N1, N2, N2, N2, N1, N0⟩ : Grid) P1 = some (ZP, none) :=
  rfl

theorem t012122012 : readBoardAux P2 4 (⟨N0, N1, N2, N1, N2, N2, N0, N1, N2⟩ : Grid) P1 = some (ZP, none) :=
  rfl

theorem v012122010 : readBoardAux P2 5 (⟨N0, N1, N2, N1, N2, N2, N0, N1, N0⟩ : Grid) P2 = some (ZP, some M00) :=
  readBoardAux_step P2 4 (⟨N0, N1, N2, N1, N2, N2, N0, N1, N0⟩ : Grid) P2 [M00, M20, M22] rfl rfl
    (collectScores_cons v212122010 (collectScores_cons t012122210 (collectScores_cons t012122012 collectScores_nil))) rfl

theorem t012122201 : readBoardAux P2 4 (⟨N0, N1, N2, N1, N2, N2, N2, N0, N1⟩ : Grid) P1 = some (ZP, none) :=
  rfl

theorem v012122021 : readBoardAux P2 4 (⟨N0, N1, N2, N1, N2, N2, N0, N2, N1⟩ : Grid) P1 = some (Z0, some M20) :=
  readBoardAux_step P2 3 (⟨N0, N1, N2, N1, N2, N2, N0, N2, N1⟩ : Grid) P1 [M00, M20] rfl rfl
    (collectScores_cons v112122021 (collectScores_cons v012122121 collectScores_nil)) rfl

theorem v012122001 : readBoardAux P2 5 (⟨N0, N1, N2, N1, N2, N2, N0, N0, N1⟩ : Grid) P2 = some (ZP, some M20) :=
  readBoardAux_step P2 4 (⟨N0, N1, N2, N1, N2, N2, N0, N0, N1⟩ : Grid) P2 [M00, M20, M21] rfl rfl
    (collectScores_cons v212122001 (collectScores_cons t012122201 (collectScores_cons v012122021 collectScores_nil))) rfl

theorem v012122000 : readBoardAux P2 6 (⟨N0, N1, N2, N1, N2, N2, N0, N0, N0⟩ : Grid) P1 = some (ZP, some M00) :=
  readBoardAux_step P2 5 (⟨N0, N1, N2, N1, N2, N2, N0, N0, N0⟩ : Grid) P1 [M00, M20, M21, M22] rfl rfl
    (collectScores_cons v112122000 (collectScores_cons v012122100 (collectScores_cons v012122010 (collectScores_cons v012122001 collectScores_nil)))) rfl

theorem t012120200 : readBoardAux P2 6 (⟨N0, N1, N2, N1, N2, N0, N2, N0, N0⟩ : Grid) P1 = some (ZP, none) :=
  rfl

theorem t012121220 : readBoardAux P2 4 (⟨N0, N1, N2, N1, N2, N1, N2, N2, N0⟩ : Grid) P1 = some (ZP, none) :=
  rfl

theorem v012121122 : readBoardAux P2 3 (⟨N0, N1, N2, N1, N2, N1, N1, N2, N2⟩ : Grid) P2 = some (ZP, some M00) :=
  readBoardAux_step P2 2 (⟨N0, N1, N2, N1, N2, N1, N1, N2, N2⟩ : Grid) P2 [M00] rfl rfl
    (collectScores_cons t212121122 collectScores_nil) rfl

theorem v012121022 : readBoardAux P2 4 (⟨N0, N1, N2, N1, N2, N1, N0, N2, N2⟩ : Grid) P1 = some (ZP, some M00) :=
  readBoardAux_step P2 3 (⟨N0, N1, N2, N1, N2, N1, N0, N2, N2⟩ : Grid) P1 [M00, M20] rfl rfl
    (collectScores_cons v112121022 (collectScores_cons v012121122 collectScores_nil)) rfl

theorem v012121020 : readBoardAux P2 5 (⟨N0, N1, N2, N1, N2, N1, N0, N2, N0⟩ : Grid) P2 = some (ZP, some M00) :=
  readBoardAux_step P2 4 (⟨N0, N1, N2, N1, N2, N1, N0, N2, N0⟩ : Grid) P2 [M00, M20, M22] rfl rfl
    (collectScores_cons v212121020 (collectScores_cons t012121220 (collectScores_cons v012121022 collectScores_nil))) rfl

theorem v012120122 : readBoardAux P2 4 (⟨N0, N1, N2, N1, N2, N0, N1, N2, N2⟩ : Grid) P1 = some (ZM, some M00) :=
  readBoardAux_step P2 3 (⟨N0, N1, N2, N1, N2, N0, N1, N2, N2⟩ : Grid) P1 [M00, M12] rfl rfl
    (collectScores_cons t112120122 (collectScores_cons v012121122 collectScores_nil)) rfl

theorem v012120120 : readBoardAux P2 5 (⟨N0, N1, N2, N1, N2, N0, N1, N2, N0⟩ : Grid) P2 = some (Z0, some M00) :=
  readBoardAux_step P2 4 (⟨N0, N1, N2, N1, N2, N0, N1, N2, N0⟩ : Grid) P2 [M00, M12, M22] rfl rfl
    (collectScores_cons v212120120 (collectScores_cons v012122120 (collectScores_cons v012120122 collectScores_nil))) rfl

theorem t012120221 : readBoardAux P2 4 (⟨N0, N1, N2, N1, N2, N0, N2, N2, N1⟩ : Grid) P1 = some (ZP, none) :=
  rfl

theorem v012120021 : readBoardAux P2 5 (⟨N0, N1, N2, N1, N2, N0, N0, N2, N1⟩ : Grid) P2 = some (ZP, some M20) :=
  readBoardAux_step P2 4 (⟨N0, N1, N2, N1, N2, N0, N0, N2, N1⟩ : Grid) P2 [M00, M12, M20] rfl rfl
    (collectScores_cons v212120021 (collectScores_cons v012122021 (collectScores_cons t012120221 collectScores_nil))) rfl

theorem v012120020 : readBoardAux P2 6 (⟨N0, N1, N2, N1, N2, N0, N0, N2, N0⟩ : Grid) P1 = some (Z0, some M20) :=
  readBoardAux_step P2 5 (⟨N0, N1, N2, N1, N2, N0, N0, N2, N0⟩ : Grid) P1 [M00, M12, M20, M22] rfl rfl
    (collectScores_cons v112120020 (collectScores_cons v012121020 (collectScores_cons v012120120 (collectScores_cons v012120021 collectScores_nil)))) rfl

theorem t012121202 : readBoardAux P2 4 (⟨N0, N1, N2, N1, N2, N1, N2, N0, N2⟩ : Grid) P1 = some (ZP, none) :=
  rfl

theorem v012121002 : readBoardAux P2 5 (⟨N0, N1, N2, N1, N2, N1, N0, N0, N2⟩ : Grid) P2 = some (ZP, some M00) :=
  readBoardAux_step P2 4 (⟨N0, N1, N2, N1, N2, N1, N0, N0, N2⟩ : Grid) P2 [M00, M20, M21] rfl rfl
    (collectScores_cons t212121002 (collectScores_cons t012121202 (collectScores_cons v012121022 collectScores_nil))) rfl

theorem v012120102 : readBoardAux P2 5 (⟨N0, N1, N2, N1, N2, N0, N1, N0, N2⟩ : Grid) P2 = some (ZP, some M00) :=
  readBoardAux_step P2 4 (⟨N0, N1, N2, N1, N2, N0, N1, N0, N2⟩ : Grid) P2 [M00, M12, M21] rfl rfl
    (collectScores_cons t212120102 (collectScores_cons t012122102 (collectScores_cons v012120122 collectScores_nil))) rfl

theorem t012120212 : readBoardAux P2 4 (⟨N0, N1, N2, N1, N2, N0, N2, N1, N2⟩ : Grid) P1 = some (ZP, none) :=
  rfl

theorem v012120012 : readBoardAux P2 5 (⟨N0, N1, N2, N1, N2, N0, N0, N1, N2⟩ : Grid) P2 = some (ZP, some M00) :=
  readBoardAux_step P2 4 (⟨N0, N1, N2, N1, N2, N0, N0, N1, N2⟩ : Grid) P2 [M00, M12, M20] rfl rfl
    (collectScores_cons t212120012 (collectScores_cons t012122012 (collectScores_cons t012120212 collectScores_nil))) rfl

theorem v012120002 : readBoardAux P2 6 (⟨N0, N1, N2, N1, N2, N0, N0, N0, N2⟩ : Grid) P1 = some (ZP, some M00) :=
  readBoardAux_step P2 5 (⟨N0, N1, N2, N1, N2, N0, N0, N0, N2⟩ : Grid) P1 [M00, M12, M20, M21] rfl rfl
    (collectScores_cons v112120002 (collectScores_cons v012121002 (collectScores_cons v012120102 (collectScores_cons v012120012 collectScores_nil)))) rfl

theorem v012120000 : readBoardAux P2 7 (⟨N0, N1, N2, N1, N2, N0, N0, N0, N0⟩ : Grid) P2 = some (ZP, some M00) :=
  readBoardAux_step P2 6 (⟨N0, N1, N2, N1, N2, N0, N0, N0, N0⟩ : Grid) P2 [M00, M12, M20, M21, M22] rfl rfl
    (collectScores_cons v212120000 (collectScores_cons v012122000 (collectScores_cons t012120200 (collectScores_cons v012120020 (collectScores_cons v012120002 collectScores_nil))))) rfl

theorem t012021200 : readBoardAux P2 6 (⟨N0, N1, N2, N0, N2, N1, N2, N0, N0⟩ : Grid) P1 = some (ZP, none) :=
  rfl

theorem v012021122 : readBoardAux P2 4 (⟨N0, N1, N2, N0, N2, N1, N1, N2, N2⟩ : Grid) P1 = some (Z0, some M00) :=
  readBoardAux_step P2 3 (⟨N0, N1, N2, N0, N2, N1, N1, N2, N2⟩ : Grid) P1 [M00, M10] rfl rfl
    (collectScores_cons v112021122 (collectScores_cons v012121122 collectScores_nil)) rfl

theorem v012021120 : readBoardAux P2 5 (⟨N0, N1, N2, N0, N2, N1, N1, N2, N0⟩ : Grid) P2 = some (Z0, some M00) :=
  readBoardAux_step P2 4 (⟨N0, N1, N2, N0, N2, N1, N1, N2, N0⟩ : Grid) P2 [M00, M10, M22] rfl rfl
    (collectScores_cons v212021120 (collectScores_cons v012221120 (collectScores_cons v012021122 collectScores_nil))) rfl

theorem t012021221 : readBoardAux P2 4 (⟨N0, N1, N2, N0, N2, N1, N2, N2, N1⟩ : Grid) P1 = some (ZP, none) :=
  rfl

theorem v012021021 : readBoardAux P2 5 (⟨N0, N1, N2, N0, N2, N1, N0, N2, N1⟩ : Grid) P2 = some (ZP, some M20) :=
  readBoardAux_step P2 4 (⟨N0, N1, N2, N0, N2, N1, N0, N2, N1⟩ : Grid) P2 [M00, M10, M20] rfl rfl
    (collectScores_cons v212021021 (collectScores_cons v012221021 (collectScores_cons t012021221 collectScores_nil))) rfl

theorem v012021020 : readBoardAux P2 6 (⟨N0, N1, N2, N0, N2, N1, N0, N2, N0⟩ : Grid) P1 = some (Z0, some M20) :=
  readBoardAux_step P2 5 (⟨N0, N1, N2, N0, N2, N1, N0, N2, N0⟩ : Grid) P1 [M00, M10, M20, M22] rfl rfl
    (collectScores_cons v112021020 (collectScores_cons v012121020 (collectScores_cons v012021120 (collectScores_cons v012021021 collectScores_nil)))) rfl

theorem v012021102 : readBoardAux P2 5 (⟨N0, N1, N2, N0, N2, N1, N1, N0, N2⟩ : Grid) P2 = some (ZP, some M00) :=
  readBoardAux_step P2 4 (⟨N0, N1, N2, N0, N2, N1, N1, N0, N2⟩ : Grid) P2 [M00, M10, M21] rfl rfl
    (collectScores_cons t212021102 (collectScores_cons v012221102 (collectScores_cons v012021122 collectScores_nil))) rfl

theorem t012021212 : readBoardAux P2 4 (⟨N0, N1, N2, N0, N2, N1, N2, N1, N2⟩ : Grid) P1 = some (ZP, none) :=
  rfl

theorem v012021012 : readBoardAux P2 5 (⟨N0, N1, N2, N0, N2, N1, N0, N1, N2⟩ : Grid) P2 = some (ZP, some M00) :=
  readBoardAux_step P2 4 (⟨N0, N1, N2, N0, N2, N1, N0, N1, N2⟩ : Grid) P2 [M00, M10, M20] rfl rfl
    (collectScores_cons t212021012 (collectScores_cons v012221012 (collectScores_cons t012021212 collectScores_nil))) rfl

theorem v012021002 : readBoardAux P2 6 (⟨N0, N1, N2, N0, N2, N1, N0, N0, N2⟩ : Grid) P1 = some (ZP, some M00) :=
  readBoardAux_step P2 5 (⟨N0, N1, N2, N0, N2, N1, N0, N0, N2⟩ : Grid) P1 [M00, M10, M20, M21] rfl rfl
    (collectScores_cons v112021002 (collectScores_cons v012121002 (collectScores_cons v012021102 (collectScores_cons v012021012 collectScores_nil)))) rfl

theorem v012021000 : readBoardAux P2 7 (⟨N0, N1, N2, N0, N2, N1, N0, N0, N0⟩ : Grid) P2 = some (ZP, some M00) :=
  readBoardAux_step P2 6 (⟨N0, N1, N2, N0, N2, N1, N0, N0, N0⟩ : Grid) P2 [M00, M10, M20, M21, M22] rfl rfl
    (collectScores_cons v212021000 (collectScores_cons v012221000 (collectScores_cons t012021200 (collectScores_cons v012021020 (collectScores_cons v012021002 collectScores_nil))))) rfl

theorem t012022112 : readBoardAux P2 4 (⟨N0, N1, N2, N0, N2, N2, N1, N1, N2⟩ : Grid) P1 = some (ZP, none) :=
  rfl

theorem v012022110 : readBoardAux P2 5 (⟨N0, N1, N2, N0, N2, N2, N1, N1, N0⟩ : Grid) P2 = some (ZP, some M10) :=
  readBoardAux_step P2 4 (⟨N0, N1, N2, N0, N2, N2, N1, N1, N0⟩ : Grid) P2 [M00, M10, M22] rfl rfl
    (collectScores_cons v212022110 (collectScores_cons t012222110 (collectScores_cons t012022112 collectScores_nil))) rfl

theorem v012022121 : readBoardAux P2 4 (⟨N0, N1, N2, N0, N2, N2, N1, N2, N1⟩ : Grid) P1 = some (Z0, some M10) :=
  readBoardAux_step P2 3 (⟨N0, N1, N2, N0, N2, N2, N1, N2, N1⟩ : Grid) P1 [M00, M10] rfl rfl
    (collectScores_cons v112022121 (collectScores_cons v012122121 collectScores_nil)) rfl

theorem v012022101 : readBoardAux P2 5 (⟨N0, N1, N2, N0, N2, N2, N1, N0, N1⟩ : Grid) P2 = some (ZP, some M10) :=
  readBoardAux_step P2 4 (⟨N0, N1, N2, N0, N2, N2, N1, N0, N1⟩ : Grid) P2 [M00, M10, M21] rfl rfl
    (collectScores_cons v212022101 (collectScores_cons t012222101 (collectScores_cons v012022121 collectScores_nil))) rfl

theorem v012022100 : readBoardAux P2 6 (⟨N0, N1, N2, N0, N2, N2, N1, N0, N0⟩ : Grid) P1 = some (ZP, some M00) :=
  readBoardAux_step P2 5 (⟨N0, N1, N2, N0, N2, N2, N1, N0, N0⟩ : Grid) P1 [M00, M10, M21, M22] rfl rfl
    (collectScores_cons v112022100 (collectScores_cons v012122100 (collectScores_cons v012022110 (collectScores_cons v012022101 collectScores_nil)))) rfl

theorem v012020121 : readBoardAux P2 5 (⟨N0, N1, N2, N0, N2, N0, N1, N2, N1⟩ : Grid) P2 = some (Z0, some M00) :=
  readBoardAux_step P2 4 (⟨N0, N1, N2, N0, N2, N0, N1, N2, N1⟩ : Grid) P2 [M00, M10, M12] rfl rfl
    (collectScores_cons v212020121 (collectScores_cons v012220121 (collectScores_cons v012022121 collectScores_nil))) rfl

theorem v012020120 : readBoardAux P2 6 (⟨N0, N1, N2, N0, N2, N0, N1, N2, N0⟩ : Grid) P1 = some (Z0, some M00) :=
  readBoardAux_step P2 5 (⟨N0, N1, N2, N0, N2, N0, N1, N2, N0⟩ : Grid) P1 [M00, M10, M12, M22] rfl rfl
    (collectScores_cons v112020120 (collectScores_cons v012120120 (collectScores_cons v012021120 (collectScores_cons v012020121 collectScores_nil)))) rfl

theorem v012020112 : readBoardAux P2 5 (⟨N0, N1, N2, N0, N2, N0, N1, N1, N2⟩ : Grid) P2 = some (ZP, some M00) :=
  readBoardAux_step P2 4 (⟨N0, N1, N2, N0, N2, N0, N1, N1, N2⟩ : Grid) P2 [M00, M10, M12] rfl rfl
    (collectScores_cons t212020112 (collectScores_cons v012220112 (collectScores_cons t012022112 collectScores_nil))) rfl

theorem v012020102 : readBoardAux P2 6 (⟨N0, N1, N2, N0, N2, N0, N1, N0, N2⟩ : Grid) P1 = some (ZP, some M00) :=
  readBoardAux_step P2 5 (⟨N0, N1, N2, N0, N2, N0, N1, N0, N2⟩ : Grid) P1 [M00, M10, M12, M21] rfl rfl
    (collectScores_cons v112020102 (collectScores_cons v012120102 (collectScores_cons v012021102 (collectScores_cons v012020112 collectScores_nil)))) rfl

theorem v012020100 : readBoardAux P2 7 (⟨N0, N1, N2, N0, N2, N0, N1, N0, N0⟩ : Grid) P2 = some (ZP, some M12) :=
  readBoardAux_step P2 6 (⟨N0, N1, N2, N0, N2, N0, N1, N0, N0⟩ : Grid) P2 [M00, M10, M12, M21, M22] rfl rfl
    (collectScores_cons v212020100 (collectScores_cons v012220100 (collectScores_cons v012022100 (collectScores_cons v012020120 (collectScores_cons v012020102 collectScores_nil))))) rfl

theorem t012022211 : readBoardAux P2 4 (⟨N0, N1, N2, N0, N2, N2, N2, N1, N1⟩ : Grid) P1 = some (ZP, none) :=
  rfl

theorem v012022011 : readBoardAux P2 5 (⟨N0, N1, N2, N0, N2, N2, N0, N1, N1⟩ : Grid) P2 = some (ZP, some M10) :=
  readBoardAux_step P2 4 (⟨N0, N1, N2, N0, N2, N2, N0, N1, N1⟩ : Grid) P2 [M00, M10, M20] rfl rfl
    (collectScores_cons v212022011 (collectScores_cons t012222011 (collectScores_cons t012022211 collectScores_nil))) rfl

theorem v012022010 : readBoardAux P2 6 (⟨N0, N1, N2, N0, N2, N2, N0, N1, N0⟩ : Grid) P1 = some (ZP, some M00) :=
  readBoardAux_step P2 5 (⟨N0, N1, N2, N0, N2, N2, N0, N1, N0⟩ : Grid) P1 [M00, M10, M20, M22] rfl rfl
    (collectScores_cons v112022010 (collectScores_cons v012122010 (collectScores_cons v012022110 (collectScores_cons v012022011 collectScores_nil)))) rfl

theorem t012020210 : readBoardAux P2 6 (⟨N0, N1, N2, N0, N2, N0, N2, N1, N0⟩ : Grid) P1 = some (ZP, none) :=
  rfl

theorem v012020012 : readBoardAux P2 6 (⟨N0, N1, N2, N0, N2, N0, N0, N1, N2⟩ : Grid) P1 = some (ZP, some M00) :=
  readBoardAux_step P2 5 (⟨N0, N1, N2, N0, N2, N0, N0, N1, N2⟩ : Grid) P1 [M00, M10, M12, M20] rfl rfl
    (collectScores_cons v112020012 (collectScores_cons v012120012 (collectScores_cons v012021012 (collectScores_cons v012020112 collectScores_nil)))) rfl

theorem v012020010 : readBoardAux P2 7 (⟨N0, N1, N2, N0, N2, N0, N0, N1, N0⟩ : Grid) P2 = some (ZP, some M00) :=
  readBoardAux_step P2 6 (⟨N0, N1, N2, N0, N2, N0, N0, N1, N0⟩ : Grid) P2 [M00, M10, M12, M20, M22] rfl rfl
    (collectScores_cons v212020010 (collectScores_cons v012220010 (collectScores_cons v012022010 (collectScores_cons t012020210 (collectScores_cons v012020012 collectScores_nil))))) rfl

theorem v012022001 : readBoardAux P2 6 (⟨N0, N1, N2, N0, N2, N2, N0, N0, N1⟩ : Grid) P1 = some (ZP, some M00) :=
  readBoardAux_step P2 5 (⟨N0, N1, N2, N0, N2, N2, N0, N0, N1⟩ : Grid) P1 [M00, M10, M20, M21] rfl rfl
    (collectScores_cons v112022001 (collectScores_cons v012122001 (collectScores_cons v012022101 (collectScores_cons v012022011 collectScores_nil)))) rfl

theorem t012020201 : readBoardAux P2 6 (⟨N0, N1, N2, N0, N2, N0, N2, N0, N1⟩ : Grid) P1 = some (ZP, none) :=
  rfl

theorem v012020021 : readBoardAux P2 6 (⟨N0, N1, N2, N0, N2, N0, N0, N2, N1⟩ : Grid) P1 = some (Z0, some M20) :=
  readBoardAux_step P2 5 (⟨N0, N1, N2, N0, N2, N0, N0, N2, N1⟩ : Grid) P1 [M00, M10, M12, M20] rfl rfl
    (collectScores_cons v112020021 (collectScores_cons v012120021 (collectScores_cons v012021021 (collectScores_cons v012020121 collectScores_nil)))) rfl

theorem v012020001 : readBoardAux P2 7 (⟨N0, N1, N2, N0, N2, N0, N0, N0, N1⟩ : Grid) P2 = some (ZP, some M10) :=
  readBoardAux_step P2 6 (⟨N0, N1, N2, N0, N2, N0, N0, N0, N1⟩ : Grid) P2 [M00, M10, M12, M20, M21] rfl rfl
    (collectScores_cons v212020001 (collectScores_cons v012220001 (collectScores_cons v012022001 (collectScores_cons t012020201 (collectScores_cons v012020021 collectScores_nil))))) rfl

theorem v012020000 : readBoardAux P2 8 (⟨N0, N1, N2, N0, N2, N0, N0, N0, N0⟩ : Grid) P1 = some (ZP, some M00) :=
  readBoardAux_step P2 7 (⟨N0, N1, N2, N0, N2, N0, N0, N0, N0⟩ : Grid) P1 [M00, M10, M12, M20, M21, M22] rfl rfl
    (collectScores_cons v112020000 (collectScores_cons v012120000 (collectScores_cons v012021000 (collectScores_cons v012020100 (collectScores_cons v012020010 (collectScores_cons v012020001 collectScores_nil)))))) rfl

theorem v012112221 : readBoardAux P2 3 (⟨N0, N1, N2, N1, N1, N2, N2, N2, N1⟩ : Grid) P2 = some (Z0, some M00) :=
  readBoardAux_step P2 2 (⟨N0, N1, N2, N1, N1, N2, N2, N2, N1⟩ : Grid) P2 [M00] rfl rfl
    (collectScores_cons t212112221 collectScores_nil) rfl

theorem v012112220 : readBoardAux P2 4 (⟨N0, N1, N2, N1, N1, N2, N2, N2, N0⟩ : Grid) P1 = some (Z0, some M22) :=
  readBoardAux_step P2 3 (⟨N0, N1, N2, N1, N1, N2, N2, N2, N0⟩ : Grid) P1 [M00, M22] rfl rfl
    (collectScores_cons v112112220 (collectScores_cons v012112221 collectScores_nil)) rfl

theorem t012112202 : readBoardAux P2 4 (⟨N0, N1, N2, N1, N1, N2, N2, N0, N2⟩ : Grid) P1 = some (ZP, none) :=
  rfl

theorem v012112200 : readBoardAux P2 5 (⟨N0, N1, N2, N1, N1, N2, N2, N0, N0⟩ : Grid) P2 = some (ZP, some M22) :=
  readBoardAux_step P2 4 (⟨N0, N1, N2, N1, N1, N2, N2, N0, N0⟩ : Grid) P2 [M00, M21, M22] rfl rfl
    (collectScores_cons v212112200 (collectScores_cons v012112220 (collectScores_cons t012112202 collectScores_nil))) rfl

theorem t012102212 : readBoardAux P2 4 (⟨N0, N1, N2, N1, N0, N2, N2, N1, N2⟩ : Grid) P1 = some (ZP, none) :=
  rfl

theorem v012102210 : readBoardAux P2 5 (⟨N0, N1, N2, N1, N0, N2, N2, N1, N0⟩ : Grid) P2 = some (ZP, some M11) :=
  readBoardAux_step P2 4 (⟨N0, N1, N2, N1, N0, N2, N2, N1, N0⟩ : Grid) P2 [M00, M11, M22] rfl rfl
    (collectScores_cons v212102210 (collectScores_cons t012122210 (collectScores_cons t012102212 collectScores_nil))) rfl

theorem v012102221 : readBoardAux P2 4 (⟨N0, N1, N2, N1, N0, N2, N2, N2, N1⟩ : Grid) P1 = some (Z0, some M11) :=
  readBoardAux_step P2 3 (⟨N0, N1, N2, N1, N0, N2, N2, N2, N1⟩ : Grid) P1 [M00, M11] rfl rfl
    (collectScores_cons v112102221 (collectScores_cons v012112221 collectScores_nil)) rfl

theorem v012102201 : readBoardAux P2 5 (⟨N0, N1, N2, N1, N0, N2, N2, N0, N1⟩ : Grid) P2 = some (ZP, some M11) :=
  readBoardAux_step P2 4 (⟨N0, N1, N2, N1, N0, N2, N2, N0, N1⟩ : Grid) P2 [M00, M11, M21] rfl rfl
    (collectScores_cons v212102201 (collectScores_cons t012122201 (collectScores_cons v012102221 collectScores_nil))) rfl

theorem v012102200 : readBoardAux P2 6 (⟨N0, N1, N2, N1, N0, N2, N2, N0, N0⟩ : Grid) P1 = some (ZP, some M00) :=
  readBoardAux_step P2 5 (⟨N0, N1, N2, N1, N0, N2, N2, N0, N0⟩ : Grid) P1 [M00, M11, M21, M22] rfl rfl
    (collectScores_cons v112102200 (collectScores_cons v012112200 (collectScores_cons v012102210 (collectScores_cons v012102201 collectScores_nil)))) rfl

theorem t012112022 : readBoardAux P2 4 (⟨N0, N1, N2, N1, N1, N2, N0, N2, N2⟩ : Grid) P1 = some (ZP, none) :=
  rfl

theorem v012112020 : readBoardAux P2 5 (⟨N0, N1, N2, N1, N1, N2, N0, N2, N0⟩ : Grid) P2 = some (ZP, some M22) :=
  readBoardAux_step P2 4 (⟨N0, N1, N2, N1, N1, N2, N0, N2, N0⟩ : Grid) P2 [M00, M20, M22] rfl rfl
    (collectScores_cons v212112020 (collectScores_cons v012112220 (collectScores_cons t012112022 collectScores_nil))) rfl

theorem t012102122 : readBoardAux P2 4 (⟨N0, N1, N2, N1, N0, N2, N1, N2, N2⟩ : Grid) P1 = some (ZP, none) :=
  rfl

theorem v012102120 : readBoardAux P2 5 (⟨N0, N1, N2, N1, N0, N2, N1, N2, N0⟩ : Grid) P2 = some (ZP, some M22) :=
  readBoardAux_step P2 4 (⟨N0, N1, N2, N1, N0, N2, N1, N2, N0⟩ : Grid) P2 [M00, M11, M22] rfl rfl
    (collectScores_cons v212102120 (collectScores_cons v012122120 (collectScores_cons t012102122 collectScores_nil))) rfl

theorem v012102021 : readBoardAux P2 5 (⟨N0, N1, N2, N1, N0, N2, N0, N2, N1⟩ : Grid) P2 = some (Z0, some M00) :=
  readBoardAux_step P2 4 (⟨N0, N1, N2, N1, N0, N2, N0, N2, N1⟩ : Grid) P2 [M00, M11, M20] rfl rfl
    (collectScores_cons v212102021 (collectScores_cons v012122021 (collectScores_cons v012102221 collectScores_nil))) rfl

theorem v012102020 : readBoardAux P2 6 (⟨N0, N1, N2, N1, N0, N2, N0, N2, N0⟩ : Grid) P1 = some (Z0, some M22) :=
  readBoardAux_step P2 5 (⟨N0, N1, N2, N1, N0, N2, N0, N2, N0⟩ : Grid) P1 [M00, M11, M20, M22] rfl rfl
    (collectScores_cons v112102020 (collectScores_cons v012112020 (collectScores_cons v012102120 (collectScores_cons v012102021 collectScores_nil)))) rfl

theorem t012102002 : readBoardAux P2 6 (⟨N0, N1, N2, N1, N0, N2, N0, N0, N2⟩ : Grid) P1 = some (ZP, none) :=
  rfl

theorem v012102000 : readBoardAux P2 7 (⟨N0, N1, N2, N1, N0, N2, N0, N0, N0⟩ : Grid) P2 = some (ZP, some M11) :=
  readBoardAux_step P2 6 (⟨N0, N1, N2, N1, N0, N2, N0, N0, N0⟩ : Grid) P2 [M00, M11, M20, M21, M22] rfl rfl
    (collectScores_cons v212102000 (collectScores_cons v012122000 (collectScores_cons v012102200 (collectScores_cons v012102020 (collectScores_cons t012102002 collectScores_nil))))) rfl

theorem t012012210 : readBoardAux P2 5 (⟨N0, N1, N2, N0, N1, N2, N2, N1, N0⟩ : Grid) P2 = some (ZM, none) :=
  rfl

theorem v012012221 : readBoardAux P2 4 (⟨N0, N1, N2, N0, N1, N2, N2, N2, N1⟩ : Grid) P1 = some (ZM, some M00) :=
  readBoardAux_step P2 3 (⟨N0, N1, N2, N0, N1, N2, N2, N2, N1⟩ : Grid) P1 [M00, M10] rfl rfl
    (collectScores_cons t112012221 (collectScores_cons v012112221 collectScores_nil)) rfl

theorem v012012201 : readBoardAux P2 5 (⟨N0, N1, N2, N0, N1, N2, N2, N0, N1⟩ : Grid) P2 = some (ZM, some M00) :=
  readBoardAux_step P2 4 (⟨N0, N1, N2, N0, N1, N2, N2, N0, N1⟩ : Grid) P2 [M00, M10, M21] rfl rfl
    (collectScores_cons v212012201 (collectScores_cons v012212201 (collectScores_cons v012012221 collectScores_nil))) rfl

theorem v012012200 : readBoardAux P2 6 (⟨N0, N1, N2, N0, N1, N2, N2, N0, N0⟩ : Grid) P1 = some (ZM, some M21) :=
  readBoardAux_step P2 5 (⟨N0, N1, N2, N0, N1, N2, N2, N0, N0⟩ : Grid) P1 [M00, M10, M21, M22] rfl rfl
    (collectScores_cons v112012200 (collectScores_cons v012112200 (collectScores_cons t012012210 (collectScores_cons v012012201 collectScores_nil)))) rfl

theorem t012012122 : readBoardAux P2 4 (⟨N0, N1, N2, N0, N1, N2, N1, N2, N2⟩ : Grid) P1 = some (ZP, none) :=
  rfl

theorem v012012120 : readBoardAux P2 5 (⟨N0, N1, N2, N0, N1, N2, N1, N2, N0⟩ : Grid) P2 = some (ZP, some M22) :=
  readBoardAux_step P2 4 (⟨N0, N1, N2, N0, N1, N2, N1, N2, N0⟩ : Grid) P2 [M00, M10, M22] rfl rfl
    (collectScores_cons v212012120 (collectScores_cons v012212120 (collectScores_cons t012012122 collectScores_nil))) rfl

theorem v012012021 : readBoardAux P2 5 (⟨N0, N1, N2, N0, N1, N2, N0, N2, N1⟩ : Grid) P2 = some (Z0, some M00) :=
  readBoardAux_step P2 4 (⟨N0, N1, N2, N0, N1, N2, N0, N2, N1⟩ : Grid) P2 [M00, M10, M20] rfl rfl
    (collectScores_cons v212012021 (collectScores_cons v012212021 (collectScores_cons v012012221 collectScores_nil))) rfl

theorem v012012020 : readBoardAux P2 6 (⟨N0, N1, N2, N0, N1, N2, N0, N2, N0⟩ : Grid) P1 = some (Z0, some M22) :=
  readBoardAux_step P2 5 (⟨N0, N1, N2, N0, N1, N2, N0, N2, N0⟩ : Grid) P1 [M00, M10, M20, M22] rfl rfl
    (collectScores_cons v112012020 (collectScores_cons v012112020 (collectScores_cons v012012120 (collectScores_cons v012012021 collectScores_nil)))) rfl

theorem t012012002 : readBoardAux P2 6 (⟨N0, N1, N2, N0, N1, N2, N0, N0, N2⟩ : Grid) P1 = some (ZP, none) :=
  rfl

theorem v012012000 : readBoardAux P2 7 (⟨N0, N1, N2, N0, N1, N2, N0, N0, N0⟩ : Grid) P2 = some (ZP, some M22) :=
  readBoardAux_step P2 6 (⟨N0, N1, N2, N0, N1, N2, N0, N0, N0⟩ : Grid) P2 [M00, M10, M20, M21, M22] rfl rfl
    (collectScores_cons v212012000 (collectScores_cons v012212000 (collectScores_cons v012012200 (collectScores_cons v012012020 (collectScores_cons t012012002 collectScores_nil))))) rfl

theorem v012002121 : readBoardAux P2 5 (⟨N0, N1, N2, N0, N0, N2, N1, N2, N1⟩ : Grid) P2 = some (Z0, some M00) :=
  readBoardAux_step P2 4 (⟨N0, N1, N2, N0, N0, N2, N1, N2, N1⟩ : Grid) P2 [M00, M10, M11] rfl rfl
    (collectScores_cons v212002121 (collectScores_cons v012202121 (collectScores_cons v012022121 collectScores_nil))) rfl

theorem v012002120 : readBoardAux P2 6 (⟨N0, N1, N2, N0, N0, N2, N1, N2, N0⟩ : Grid) P1 = some (Z0, some M22) :=
  readBoardAux_step P2 5 (⟨N0, N1, N2, N0, N0, N2, N1, N2, N0⟩ : Grid) P1 [M00, M10, M11, M22] rfl rfl
    (collectScores_cons v112002120 (collectScores_cons v012102120 (collectScores_cons v012012120 (collectScores_cons v012002121 collectScores_nil)))) rfl

theorem t012002102 : readBoardAux P2 6 (⟨N0, N1, N2, N0, N0, N2, N1, N0, N2⟩ : Grid) P1 = some (ZP, none) :=
  rfl

theorem v012002100 : readBoardAux P2 7 (⟨N0, N1, N2, N0, N0, N2, N1, N0, N0⟩ : Grid) P2 = some (ZP, some M10) :=
  readBoardAux_step P2 6 (⟨N0, N1, N2, N0, N0, N2, N1, N0, N0⟩ : Grid) P2 [M00, M10, M11, M21, M22] rfl rfl
    (collectScores_cons v212002100 (collectScores_cons v012202100 (collectScores_cons v012022100 (collectScores_cons v012002120 (collectScores_cons t012002102 collectScores_nil))))) rfl

theorem v012002211 : readBoardAux P2 5 (⟨N0, N1, N2, N0, N0, N2, N2, N1, N1⟩ : Grid) P2 = some (ZP, some M11) :=
  readBoardAux_step P2 4 (⟨N0, N1, N2, N0, N0, N2, N2, N1, N1⟩ : Grid) P2 [M00, M10, M11] rfl rfl
    (collectScores_cons v212002211 (collectScores_cons v012202211 (collectScores_cons t012022211 collectScores_nil))) rfl

theorem v012002210 : readBoardAux P2 6 (⟨N0, N1, N2, N0, N0, N2, N2, N1, N0⟩ : Grid) P1 = some (ZM, some M11) :=
  readBoardAux_step P2 5 (⟨N0, N1, N2, N0, N0, N2, N2, N1, N0⟩ : Grid) P1 [M00, M10, M11, M22] rfl rfl
    (collectScores_cons v112002210 (collectScores_cons v012102210 (collectScores_cons t012012210 (collectScores_cons v012002211 collectScores_nil)))) rfl

theorem t012002012 : readBoardAux P2 6 (⟨N0, N1, N2, N0, N0, N2, N0, N1, N2⟩ : Grid) P1 = some (ZP, none) :=
  rfl

theorem v012002010 : readBoardAux P2 7 (⟨N0, N1, N2, N0, N0, N2, N0, N1, N0⟩ : Grid) P2 = some (ZP, some M11) :=
  readBoardAux_step P2 6 (⟨N0, N1, N2, N0, N0, N2, N0, N1, N0⟩ : Grid) P2 [M00, M10, M11, M20, M22] rfl rfl
    (collectScores_cons v212002010 (collectScores_cons v012202010 (collectScores_cons v012022010 (collectScores_cons v012002210 (collectScores_cons t012002012 collectScores_nil))))) rfl

theorem v012002201 : readBoardAux P2 6 (⟨N0, N1, N2, N0, N0, N2, N2, N0, N1⟩ : Grid) P1 = some (ZM, some M11) :=
  readBoardAux_step P2 5 (⟨N0, N1, N2, N0, N0, N2, N2, N0, N1⟩ : Grid) P1 [M00, M10, M11, M21] rfl rfl
    (collectScores_cons v112002201 (collectScores_cons v012102201 (collectScores_cons v012012201 (collectScores_cons v012002211 collectScores_nil)))) rfl

theorem v012002021 : readBoardAux P2 6 (⟨N0, N1, N2, N0, N0, N2, N0, N2, N1⟩ : Grid) P1 = some (Z0, some M10) :=
  readBoardAux_step P2 5 (⟨N0, N1, N2, N0, N0, N2, N0, N2, N1⟩ : Grid) P1 [M00, M10, M11, M20] rfl rfl
    (collectScores_cons v112002021 (collectScores_cons v012102021 (collectScores_cons v012012021 (collectScores_cons v012002121 collectScores_nil)))) rfl

theorem v012002001 : readBoardAux P2 7 (⟨N0, N1, N2, N0, N0, N2, N0, N0, N1⟩ : Grid) P2 = some (ZP, some M11) :=
  readBoardAux_step P2 6 (⟨N0, N1, N2, N0, N0, N2, N0, N0, N1⟩ : Grid) P2 [M00, M10, M11, M20, M21] rfl rfl
    (collectScores_cons v212002001 (collectScores_cons v012202001 (collectScores_cons v012022001 (collectScores_cons v012002201 (collectScores_cons v012002021 collectScores_nil))))) rfl

theorem v012002000 : readBoardAux P2 8 (⟨N0, N1, N2, N0, N0, N2, N0, N0, N0⟩ : Grid) P1 = some (ZP, some M00) :=
  readBoardAux_step P2 7 (⟨N0, N1, N2, N0, N0, N2, N0, N0, N0⟩ : Grid) P1 [M00, M10, M11, M20, M21, M22] rfl rfl
    (collectScores_cons v112002000 (collectScores_cons v012102000 (collectScores_cons v012012000 (collectScores_cons v012002100 (collectScores_cons v012002010 (collectScores_cons v012002001 collectScores_nil)))))) rfl

theorem t012110222 : readBoardAux P2 4 (⟨N0, N1, N2, N1, N1, N0, N2, N2, N2⟩ : Grid) P1 = some (ZP, none) :=
  rfl

theorem v012110220 : readBoardAux P2 5 (⟨N0, N1, N2, N1, N1, N0, N2, N2, N0⟩ : Grid) P2 = some (ZP, some M22) :=
  readBoardAux_step P2 4 (⟨N0, N1, N2, N1, N1, N0, N2, N2, N0⟩ : Grid) P2 [M00, M12, M22] rfl rfl
    (collectScores_cons v212110220 (collectScores_cons v012112220 (collectScores_cons t012110222 collectScores_nil))) rfl

theorem t012101222 : readBoardAux P2 4 (⟨N0, N1, N2, N1, N0, N1, N2, N2, N2⟩ : Grid) P1 = some (ZP, none) :=
  rfl

theorem v012101220 : readBoardAux P2 5 (⟨N0, N1, N2, N1, N0, N1, N2, N2, N0⟩ : Grid) P2 = some (ZP, some M11) :=
  readBoardAux_step P2 4 (⟨N0, N1, N2, N1, N0, N1, N2, N2, N0⟩ : Grid) P2 [M00, M11, M22] rfl rfl
    (collectScores_cons v212101220 (collectScores_cons t012121220 (collectScores_cons t012101222 collectScores_nil))) rfl

theorem v012100221 : readBoardAux P2 5 (⟨N0, N1, N2, N1, N0, N0, N2, N2, N1⟩ : Grid) P2 = some (ZP, some M11) :=
  readBoardAux_step P2 4 (⟨N0, N1, N2, N1, N0, N0, N2, N2, N1⟩ : Grid) P2 [M00, M11, M12] rfl rfl
    (collectScores_cons v212100221 (collectScores_cons t012120221 (collectScores_cons v012102221 collectScores_nil))) rfl

theorem v012100220 : readBoardAux P2 6 (⟨N0, N1, N2, N1, N0, N0, N2, N2, N0⟩ : Grid) P1 = some (ZP, some M00) :=
  readBoardAux_step P2 5 (⟨N0, N1, N2, N1, N0, N0, N2, N2, N0⟩ : Grid) P1 [M00, M11, M12, M22] rfl rfl
    (collectScores_cons v112100220 (collectScores_cons v012110220 (collectScores_cons v012101220 (collectScores_cons v012100221 collectScores_nil)))) rfl

theorem v012110202 : readBoardAux P2 5 (⟨N0, N1, N2, N1, N1, N0, N2, N0, N2⟩ : Grid) P2 = some (ZP, some M12) :=
  readBoardAux_step P2 4 (⟨N0, N1, N2, N1, N1, N0, N2, N0, N2⟩ : Grid) P2 [M00, M12, M21] rfl rfl
    (collectScores_cons v212110202 (collectScores_cons t012112202 (collectScores_cons t012110222 collectScores_nil))) rfl

theorem v012101202 : readBoardAux P2 5 (⟨N0, N1, N2, N1, N0, N1, N2, N0, N2⟩ : Grid) P2 = some (ZP, some M11) :=
  readBoardAux_step P2 4 (⟨N0, N1, N2, N1, N0, N1, N2, N0, N2⟩ : Grid) P2 [M00, M11, M21] rfl rfl
    (collectScores_cons v212101202 (collectScores_cons t012121202 (collectScores_cons t012101222 collectScores_nil))) rfl

theorem v012100212 : readBoardAux P2 5 (⟨N0, N1, N2, N1, N0, N0, N2, N1, N2⟩ : Grid) P2 = some (ZP, some M11) :=
  readBoardAux_step P2 4 (⟨N0, N1, N2, N1, N0, N0, N2, N1, N2⟩ : Grid) P2 [M00, M11, M12] rfl rfl
    (collectScores_cons v212100212 (collectScores_cons t012120212 (collectScores_cons t012102212 collectScores_nil))) rfl

theorem v012100202 : readBoardAux P2 6 (⟨N0, N1, N2, N1, N0, N0, N2, N0, N2⟩ : Grid) P1 = some (ZP, some M00) :=
  readBoardAux_step P2 5 (⟨N0, N1, N2, N1, N0, N0, N2, N0, N2⟩ : Grid) P1 [M00, M11, M12, M21] rfl rfl
    (collectScores_cons v112100202 (collectScores_cons v012110202 (collectScores_cons v012101202 (collectScores_cons v012100212 collectScores_nil)))) rfl

theorem v012100200 : readBoardAux P2 7 (⟨N0, N1, N2, N1, N0, N0, N2, N0, N0⟩ : Grid) P2 = some (ZP, some M11) :=
  readBoardAux_step P2 6 (⟨N0, N1, N2, N1, N0, N0, N2, N0, N0⟩ : Grid) P2 [M00, M11, M12, M21, M22] rfl rfl
    (collectScores_cons v212100200 (collectScores_cons t012120200 (collectScores_cons v012102200 (collectScores_cons v012100220 (collectScores_cons v012100202 collectScores_nil))))) rfl

theorem t012011222 : readBoardAux P2 4 (⟨N0, N1, N2, N0, N1, N1, N2, N2, N2⟩ : Grid) P1 = some (ZP, none) :=
  rfl

theorem v012011220 : readBoardAux P2 5 (⟨N0, N1, N2, N0, N1, N1, N2, N2, N0⟩ : Grid) P2 = some (ZP, some M10) :=
  readBoardAux_step P2 4 (⟨N0, N1, N2, N0, N1, N1, N2, N2, N0⟩ : Grid) P2 [M00, M10, M22] rfl rfl
    (collectScores_cons v212011220 (collectScores_cons v012211220 (collectScores_cons t012011222 collectScores_nil))) rfl

theorem v012010221 : readBoardAux P2 5 (⟨N0, N1, N2, N0, N1, N0, N2, N2, N1⟩ : Grid) P2 = some (Z0, some M00) :=
  readBoardAux_step P2 4 (⟨N0, N1, N2, N0, N1, N0, N2, N2, N1⟩ : Grid) P2 [M00, M10, M12] rfl rfl
    (collectScores_cons v212010221 (collectScores_cons v012210221 (collectScores_cons v012012221 collectScores_nil))) rfl

theorem v012010220 : readBoardAux P2 6 (⟨N0, N1, N2, N0, N1, N0, N2, N2, N0⟩ : Grid) P1 = some (Z0, some M22) :=
  readBoardAux_step P2 5 (⟨N0, N1, N2, N0, N1, N0, N2, N2, N0⟩ : Grid) P1 [M00, M10, M12, M22] rfl rfl
    (collectScores_cons v112010220 (collectScores_cons v012110220 (collectScores_cons v012011220 (collectScores_cons v012010221 collectScores_nil)))) rfl

theorem v012011202 : readBoardAux P2 5 (⟨N0, N1, N2, N0, N1, N1, N2, N0, N2⟩ : Grid) P2 = some (ZP, some M21) :=
  readBoardAux_step P2 4 (⟨N0, N1, N2, N0, N1, N1, N2, N0, N2⟩ : Grid) P2 [M00, M10, M21] rfl rfl
    (collectScores_cons v212011202 (collectScores_cons v012211202 (collectScores_cons t012011222 collectScores_nil))) rfl

theorem t012010212 : readBoardAux P2 5 (⟨N0, N1, N2, N0, N1, N0, N2, N1, N2⟩ : Grid) P2 = some (ZM, none) :=
  rfl

theorem v012010202 : readBoardAux P2 6 (⟨N0, N1, N2, N0, N1, N0, N2, N0, N2⟩ : Grid) P1 = some (ZM, some M21) :=
  readBoardAux_step P2 5 (⟨N0, N1, N2, N0, N1, N0, N2, N0, N2⟩ : Grid) P1 [M00, M10, M12, M21] rfl rfl
    (collectScores_cons v112010202 (collectScores_cons v012110202 (collectScores_cons v012011202 (collectScores_cons t012010212 collectScores_nil)))) rfl

theorem v012010200 : readBoardAux P2 7 (⟨N0, N1, N2, N0, N1, N0, N2, N0, N0⟩ : Grid) P2 = some (Z0, some M21) :=
  readBoardAux_step P2 6 (⟨N0, N1, N2, N0, N1, N0, N2, N0, N0⟩ : Grid) P2 [M00, M10, M12, M21, M22] rfl rfl
    (collectScores_cons v212010200 (collectScores_cons v012210200 (collectScores_cons v012012200 (collectScores_cons v012010220 (collectScores_cons v012010202 collectScores_nil))))) rfl

theorem v012001221 : readBoardAux P2 5 (⟨N0, N1, N2, N0, N0, N1, N2, N2, N1⟩ : Grid) P2 = some (ZP, some M00) :=
  readBoardAux_step P2 4 (⟨N0, N1, N2, N0, N0, N1, N2, N2, N1⟩ : Grid) P2 [M00, M10, M11] rfl rfl
    (collectScores_cons v212001221 (collectScores_cons v012201221 (collectScores_cons t012021221 collectScores_nil))) rfl

theorem v012001220 : readBoardAux P2 6 (⟨N0, N1, N2, N0, N0, N1, N2, N2, N0⟩ : Grid) P1 = some (ZP, some M00) :=
  readBoardAux_step P2 5 (⟨N0, N1, N2, N0, N0, N1, N2, N2, N0⟩ : Grid) P1 [M00, M10, M11, M22] rfl rfl
    (collectScores_cons v112001220 (collectScores_cons v012101220 (collectScores_cons v012011220 (collectScores_cons v012001221 collectScores_nil)))) rfl

theorem v012001212 : readBoardAux P2 5 (⟨N0, N1, N2, N0, N0, N1, N2, N1, N2⟩ : Grid) P2 = some (ZP, some M11) :=
  readBoardAux_step P2 4 (⟨N0, N1, N2, N0, N0, N1, N2, N1, N2⟩ : Grid) P2 [M00, M10, M11] rfl rfl
    (collectScores_cons v212001212 (collectScores_cons v012201212 (collectScores_cons t012021212 collectScores_nil))) rfl

theorem v012001202 : readBoardAux P2 6 (⟨N0, N1, N2, N0, N0, N1, N2, N0, N2⟩ : Grid) P1 = some (ZP, some M00) :=
  readBoardAux_step P2 5 (⟨N0, N1, N2, N0, N0, N1, N2, N0, N2⟩ : Grid) P1 [M00, M10, M11, M21] rfl rfl
    (collectScores_cons v112001202 (collectScores_cons v012101202 (collectScores_cons v012011202 (collectScores_cons v012001212 collectScores_nil)))) rfl

theorem v012001200 : readBoardAux P2 7 (⟨N0, N1, N2, N0, N0, N1, N2, N0, N0⟩ : Grid) P2 = some (ZP, some M00) :=
  readBoardAux_step P2 6 (⟨N0, N1, N2, N0, N0, N1, N2, N0, N0⟩ : Grid) P2 [M00, M10, M11, M21, M22] rfl rfl
    (collectScores_cons v212001200 (collectScores_cons v012201200 (collectScores_cons t012021200 (collectScores_cons v012001220 (collectScores_cons v012001202 collectScores_nil))))) rfl

theorem v012000212 : readBoardAux P2 6 (⟨N0, N1, N2, N0, N0, N0, N2, N1, N2⟩ : Grid) P1 = some (ZM, some M11) :=
  readBoardAux_step P2 5 (⟨N0, N1, N2, N0, N0, N0, N2, N1, N2⟩ : Grid) P1 [M00, M10, M11, M12] rfl rfl
    (collectScores_cons v112000212 (collectScores_cons v012100212 (collectScores_cons t012010212 (collectScores_cons v012001212 collectScores_nil)))) rfl

theorem v012000210 : readBoardAux P2 7 (⟨N0, N1, N2, N0, N0, N0, N2, N1, N0⟩ : Grid) P2 = some (ZP, some M11) :=
  readBoardAux_step P2 6 (⟨N0, N1, N2, N0, N0, N0, N2, N1, N0⟩ : Grid) P2 [M00, M10, M11, M12, M22] rfl rfl
    (collectScores_cons v212000210 (collectScores_cons v012200210 (collectScores_cons t012020210 (collectScores_cons v012002210 (collectScores_cons v012000212 collectScores_nil))))) rfl

theorem v012000221 : readBoardAux P2 6 (⟨N0, N1, N2, N0, N0, N0, N2, N2, N1⟩ : Grid) P1 = some (Z0, some M11) :=
  readBoardAux_step P2 5 (⟨N0, N1, N2, N0, N0, N0, N2, N2, N1⟩ : Grid) P1 [M00, M10, M11, M12] rfl rfl
    (collectScores_cons v112000221 (collectScores_cons v012100221 (collectScores_cons v012010221 (collectScores_cons v012001221 collectScores_nil)))) rfl

theorem v012000201 : readBoardAux P2 7 (⟨N0, N1, N2, N0, N0, N0, N2, N0, N1⟩ : Grid) P2 = some (ZP, some M00) :=
  readBoardAux_step P2 6 (⟨N0, N1, N2, N0, N0, N0, N2, N0, N1⟩ : Grid) P2 [M00, M10, M11, M12, M21] rfl rfl
    (collectScores_cons v212000201 (collectScores_cons v012200201 (collectScores_cons t012020201 (collectScores_cons v012002201 (collectScores_cons v012000221 collectScores_nil))))) rfl

theorem v012000200 : readBoardAux P2 8 (⟨N0, N1, N2, N0, N0, N0, N2, N0, N0⟩ : Grid) P1 = some (Z0, some M11) :=
  readBoardAux_step P2 7 (⟨N0, N1, N2, N0, N0, N0, N2, N0, N0⟩ : Grid) P1 [M00, M10, M11, M12, M21, M22] rfl rfl
    (collectScores_cons v112000200 (collectScores_cons v012100200 (collectScores_cons v012010200 (collectScores_cons v012001200 (collectScores_cons v012000210 (collectScores_cons v012000201 collectScores_nil)))))) rfl

theorem v012110022 : readBoardAux P2 5 (⟨N0, N1, N2, N1, N1, N0, N0, N2, N2⟩ : Grid) P2 = some (ZP, some M12) :=
  readBoardAux_step P2 4 (⟨N0, N1, N2, N1, N1, N0, N0, N2, N2⟩ : Grid) P2 [M00, M12, M20] rfl rfl
    (collectScores_cons v212110022 (collectScores_cons t012112022 (collectScores_cons t012110222 collectScores_nil))) rfl

theorem v012101022 : readBoardAux P2 5 (⟨N0, N1, N2, N1, N0, N1, N0, N2, N2⟩ : Grid) P2 = some (ZP, some M11) :=
  readBoardAux_step P2 4 (⟨N0, N1, N2, N1, N0, N1, N0, N2, N2⟩ : Grid) P2 [M00, M11, M20] rfl rfl
    (collectScores_cons v212101022 (collectScores_cons v012121022 (collectScores_cons t012101222 collectScores_nil))) rfl

theorem v012100122 : readBoardAux P2 5 (⟨N0, N1, N2, N1, N0, N0, N1, N2, N2⟩ : Grid) P2 = some (ZP, some M00) :=
  readBoardAux_step P2 4 (⟨N0, N1, N2, N1, N0, N0, N1, N2, N2⟩ : Grid) P2 [M00, M11, M12] rfl rfl
    (collectScores_cons v212100122 (collectScores_cons v012120122 (collectScores_cons t012102122 collectScores_nil))) rfl

theorem v012100022 : readBoardAux P2 6 (⟨N0, N1, N2, N1, N0, N0, N0, N2, N2⟩ : Grid) P1 = some (ZP, some M00) :=
  readBoardAux_step P2 5 (⟨N0, N1, N2, N1, N0, N0, N0, N2, N2⟩ : Grid) P1 [M00, M11, M12, M20] rfl rfl
    (collectScores_cons v112100022 (collectScores_cons v012110022 (collectScores_cons v012101022 (collectScores_cons v012100122 collectScores_nil)))) rfl

theorem v012100020 : readBoardAux P2 7 (⟨N0, N1, N2, N1, N0, N0, N0, N2, N0⟩ : Grid) P2 = some (ZP, some M20) :=
  readBoardAux_step P2 6 (⟨N0, N1, N2, N1, N0, N0, N0, N2, N0⟩ : Grid) P2 [M00, M11, M12, M20, M22] rfl rfl
    (collectScores_cons v212100020 (collectScores_cons v012120020 (collectScores_cons v012102020 (collectScores_cons v012100220 (collectScores_cons v012100022 collectScores_nil))))) rfl

theorem v012011022 : readBoardAux P2 5 (⟨N0, N1, N2, N0, N1, N1, N0, N2, N2⟩ : Grid) P2 = some (ZP, some M20) :=
  readBoardAux_step P2 4 (⟨N0, N1, N2, N0, N1, N1, N0, N2, N2⟩ : Grid) P2 [M00, M10, M20] rfl rfl
    (collectScores_cons v212011022 (collectScores_cons v012211022 (collectScores_cons t012011222 collectScores_nil))) rfl

theorem v012010122 : readBoardAux P2 5 (⟨N0, N1, N2, N0, N1, N0, N1, N2, N2⟩ : Grid) P2 = some (ZP, some M12) :=
  readBoardAux_step P2 4 (⟨N0, N1, N2, N0, N1, N0, N1, N2, N2⟩ : Grid) P2 [M00, M10, M12] rfl rfl
    (collectScores_cons v212010122 (collectScores_cons v012210122 (collectScores_cons t012012122 collectScores_nil))) rfl

theorem v012010022 : readBoardAux P2 6 (⟨N0, N1, N2, N0, N1, N0, N0, N2, N2⟩ : Grid) P1 = some (ZP, some M00) :=
  readBoardAux_step P2 5 (⟨N0, N1, N2, N0, N1, N0, N0, N2, N2⟩ : Grid) P1 [M00, M10, M12, M20] rfl rfl
    (collectScores_cons v112010022 (collectScores_cons v012110022 (collectScores_cons v012011022 (collectScores_cons v012010122 collectScores_nil)))) rfl

theorem v012010020 : readBoardAux P2 7 (⟨N0, N1, N2, N0, N1, N0, N0, N2, N0⟩ : Grid) P2 = some (ZP, some M22) :=
  readBoardAux_step P2 6 (⟨N0, N1, N2, N0, N1, N0, N0, N2, N0⟩ : Grid) P2 [M00, M10, M12, M20, M22] rfl rfl
    (collectScores_cons v212010020 (collectScores_cons v012210020 (collectScores_cons v012012020 (collectScores_cons v012010220 (collectScores_cons v012010022 collectScores_nil))))) rfl

theorem v012001122 : readBoardAux P2 5 (⟨N0, N1, N2, N0, N0, N1, N1, N2, N2⟩ : Grid) P2 = some (Z0, some M00) :=
  readBoardAux_step P2 4 (⟨N0, N1, N2, N0, N0, N1, N1, N2, N2⟩ : Grid) P2 [M00, M10, M11] rfl rfl
    (collectScores_cons v212001122 (collectScores_cons v012201122 (collectScores_cons v012021122 collectScores_nil))) rfl

theorem v012001022 : readBoardAux P2 6 (⟨N0, N1, N2, N0, N0, N1, N0, N2, N2⟩ : Grid) P1 = some (Z0, some M20) :=
  readBoardAux_step P2 5 (⟨N0, N1, N2, N0, N0, N1, N0, N2, N2⟩ : Grid) P1 [M00, M10, M11, M20] rfl rfl
    (collectScores_cons v112001022 (collectScores_cons v012101022 (collectScores_cons v012011022 (collectScores_cons v012001122 collectScores_nil)))) rfl

theorem v012001020 : readBoardAux P2 7 (⟨N0, N1, N2, N0, N0, N1, N0, N2, N0⟩ : Grid) P2 = some (ZP, some M20) :=
  readBoardAux_step P2 6 (⟨N0, N1, N2, N0, N0, N1, N0, N2, N0⟩ : Grid) P2 [M00, M10, M11, M20, M22] rfl rfl
    (collectScores_cons v212001020 (collectScores_cons v012201020 (collectScores_cons v012021020 (collectScores_cons v012001220 (collectScores_cons v012001022 collectScores_nil))))) rfl

theorem v012000122 : readBoardAux P2 6 (⟨N0, N1, N2, N0, N0, N0, N1, N2, N2⟩ : Grid) P1 = some (Z0, some M12) :=
  readBoardAux_step P2 5 (⟨N0, N1, N2, N0, N0, N0, N1, N2, N2⟩ : Grid) P1 [M00, M10, M11, M12] rfl rfl
    (collectScores_cons v112000122 (collectScores_cons v012100122 (collectScores_cons v012010122 (collectScores_cons v012001122 collectScores_nil)))) rfl

theorem v012000120 : readBoardAux P2 7 (⟨N0, N1, N2, N0, N0, N0, N1, N2, N0⟩ : Grid) P2 = some (Z0, some M00) :=
  readBoardAux_step P2 6 (⟨N0, N1, N2, N0, N0, N0, N1, N2, N0⟩ : Grid) P2 [M00, M10, M11, M12, M22] rfl rfl
    (collectScores_cons v212000120 (collectScores_cons v012200120 (collectScores_cons v012020120 (collectScores_cons v012002120 (collectScores_cons v012000122 collectScores_nil))))) rfl

theorem v012000021 : readBoardAux P2 7 (⟨N0, N1, N2, N0, N0, N0, N0, N2, N1⟩ : Grid) P2 = some (Z0, some M00) :=
  readBoardAux_step P2 6 (⟨N0, N1, N2, N0, N0, N0, N0, N2, N1⟩ : Grid) P2 [M00, M10, M11, M12, M20] rfl rfl
    (collectScores_cons v212000021 (collectScores_cons v012200021 (collectScores_cons v012020021 (collectScores_cons v012002021 (collectScores_cons v012000221 collectScores_nil))))) rfl

theorem v012000020 : readBoardAux P2 8 (⟨N0, N1, N2, N0, N0, N0, N0, N2, N0⟩ : Grid) P1 = some (Z0, some M20) :=
  readBoardAux_step P2 7 (⟨N0, N1, N2, N0, N0, N0, N0, N2, N0⟩ : Grid) P1 [M00, M10, M11, M12, M20, M22] rfl rfl
    (collectScores_cons v112000020 (collectScores_cons v012100020 (collectScores_cons v012010020 (collectScores_cons v012001020 (collectScores_cons v012000120 (collectScores_cons v012000021 collectScores_nil)))))) rfl

theorem v012100002 : readBoardAux P2 7 (⟨N0, N1, N2, N1, N0, N0, N0, N0, N2⟩ : Grid) P2 = some (ZP, some M00) :=
  readBoardAux_step P2 6 (⟨N0, N1, N2, N1, N0, N0, N0, N0, N2⟩ : Grid) P2 [M00, M11, M12, M20, M21] rfl rfl
    (collectScores_cons v212100002 (collectScores_cons v012120002 (collectScores_cons t012102002 (collectScores_cons v012100202 (collectScores_cons v012100022 collectScores_nil))))) rfl

theorem v012010002 : readBoardAux P2 7 (⟨N0, N1, N2, N0, N1, N0, N0, N0, N2⟩ : Grid) P2 = some (ZP, some M12) :=
  readBoardAux_step P2 6 (⟨N0, N1, N2, N0, N1, N0, N0, N0, N2⟩ : Grid) P2 [M00, M10, M12, M20, M21] rfl rfl
    (collectScores_cons v212010002 (collectScores_cons v012210002 (collectScores_cons t012012002 (collectScores_cons v012010202 (collectScores_cons v012010022 collectScores_nil))))) rfl

theorem v012001002 : readBoardAux P2 7 (⟨N0, N1, N2, N0, N0, N1, N0, N0, N2⟩ : Grid) P2 = some (ZP, some M11) :=
  readBoardAux_step P2 6 (⟨N0, N1, N2, N0, N0, N1, N0, N0, N2⟩ : Grid) P2 [M00, M10, M11, M20, M21] rfl rfl
    (collectScores_cons v212001002 (collectScores_cons v012201002 (collectScores_cons v012021002 (collectScores_cons v012001202 (collectScores_cons v012001022 collectScores_nil))))) rfl

theorem v012000102 : readBoardAux P2 7 (⟨N0, N1, N2, N0, N0, N0, N1, N0, N2⟩ : Grid) P2 = some (ZP, some M00) :=
  readBoardAux_step P2 6 (⟨N0, N1, N2, N0, N0, N0, N1, N0, N2⟩ : Grid) P2 [M00, M10, M11, M12, M21] rfl rfl
    (collectScores_cons v212000102 (collectScores_cons v012200102 (collectScores_cons v012020102 (collectScores_cons t012002102 (collectScores_cons v012000122 collectScores_nil))))) rfl

theorem v012000012 : readBoardAux P2 7 (⟨N0, N1, N2, N0, N0, N0, N0, N1, N2⟩ : Grid) P2 = some (ZP, some M11) :=
  readBoardAux_step P2 6 (⟨N0, N1, N2, N0, N0, N0, N0, N1, N2⟩ : Grid) P2 [M00, M10, M11, M12, M20] rfl rfl
    (collectScores_cons v212000012 (collectScores_cons v012200012 (collectScores_cons v012020012 (collectScores_cons t012002012 (collectScores_cons v012000212 collectScores_nil))))) rfl

theorem v012000002 : readBoardAux P2 8 (⟨N0, N1, N2, N0, N0, N0, N0, N0, N2⟩ : Grid) P1 = some (ZP, some M00) :=
  readBoardAux_step P2 7 (⟨N0, N1, N2, N0, N0, N0, N0, N0, N2⟩ : Grid) P1 [M00, M10, M11, M12, M20, M21] rfl rfl
    (collectScores_cons v112000002 (collectScores_cons v012100002 (collectScores_cons v012010002 (collectScores_cons v012001002 (collectScores_cons v012000102 (collectScores_cons v012000012 collectScores_nil)))))) rfl

theorem v012000000 : readBoardAux P2 9 (⟨N0, N1, N2, N0, N0, N0, N0, N0, N0⟩ : Grid) P2 = some (ZP, some M11) :=
  readBoardAux_step P2 8 (⟨N0, N1, N2, N0, N0, N0, N0, N0, N0⟩ : Grid) P2 [M00, M10, M11, M12, M20, M21, M22] rfl rfl
    (collectScores_cons v212000000 (collectScores_cons v012200000 (collectScores_cons v012020000 (collectScores_cons v012002000 (collectScores_cons v012000200 (collectScores_cons v012000020 (collectScores_cons v012000002 collectScores_nil))))))) rfl

theorem t002121200 : readBoardAux P2 6 (⟨N0, N0, N2, N1, N2, N1, N2, N0, N0⟩ : Grid) P1 = some (ZP, none) :=
  rfl

theorem v002121122 : readBoardAux P2 4 (⟨N0, N0, N2, N1, N2, N1, N1, N2, N2⟩ : Grid) P1 = some (ZM, some M00) :=
  readBoardAux_step P2 3 (⟨N0, N0, N2, N1, N2, N1, N1, N2, N2⟩ : Grid) P1 [M00, M01] rfl rfl
    (collectScores_cons t102121122 (collectScores_cons v012121122 collectScores_nil)) rfl

theorem v002121120 : readBoardAux P2 5 (⟨N0, N0, N2, N1, N2, N1, N1, N2, N0⟩ : Grid) P2 = some (ZP, some M00) :=
  readBoardAux_step P2 4 (⟨N0, N0, N2, N1, N2, N1, N1, N2, N0⟩ : Grid) P2 [M00, M01, M22] rfl rfl
    (collectScores_cons v202121120 (collectScores_cons t022121120 (collectScores_cons v002121122 collectScores_nil))) rfl

theorem t002121221 : readBoardAux P2 4 (⟨N0, N0, N2, N1, N2, N1, N2, N2, N1⟩ : Grid) P1 = some (ZP, none) :=
  rfl

theorem v002121021 : readBoardAux P2 5 (⟨N0, N0, N2, N1, N2, N1, N0, N2, N1⟩ : Grid) P2 = some (ZP, some M00) :=
  readBoardAux_step P2 4 (⟨N0, N0, N2, N1, N2, N1, N0, N2, N1⟩ : Grid) P2 [M00, M01, M20] rfl rfl
    (collectScores_cons v202121021 (collectScores_cons t022121021 (collectScores_cons t002121221 collectScores_nil))) rfl

theorem v002121020 : readBoardAux P2 6 (⟨N0, N0, N2, N1, N2, N1, N0, N2, N0⟩ : Grid) P1 = some (ZP, some M00) :=
  readBoardAux_step P2 5 (⟨N0, N0, N2, N1, N2, N1, N0, N2, N0⟩ : Grid) P1 [M00, M01, M20, M22] rfl rfl
    (collectScores_cons v102121020 (collectScores_cons v012121020 (collectScores_cons v002121120 (collectScores_cons v002121021 collectScores_nil)))) rfl

theorem v002121102 : readBoardAux P2 5 (⟨N0, N0, N2, N1, N2, N1, N1, N0, N2⟩ : Grid) P2 = some (ZP, some M00) :=
  readBoardAux_step P2 4 (⟨N0, N0, N2, N1, N2, N1, N1, N0, N2⟩ : Grid) P2 [M00, M01, M21] rfl rfl
    (collectScores_cons t202121102 (collectScores_cons v022121102 (collectScores_cons v002121122 collectScores_nil))) rfl

theorem t002121212 : readBoardAux P2 4 (⟨N0, N0, N2, N1, N2, N1, N2, N1, N2⟩ : Grid) P1 = some (ZP, none) :=
  rfl

theorem v002121012 : readBoardAux P2 5 (⟨N0, N0, N2, N1, N2, N1, N0, N1, N2⟩ : Grid) P2 = some (ZP, some M00) :=
  readBoardAux_step P2 4 (⟨N0, N0, N2, N1, N2, N1, N0, N1, N2⟩ : Grid) P2 [M00, M01, M20] rfl rfl
    (collectScores_cons t202121012 (collectScores_cons v022121012 (collectScores_cons t002121212 collectScores_nil))) rfl

theorem v002121002 : readBoardAux P2 6 (⟨N0, N0, N2, N1, N2, N1, N0, N0, N2⟩ : Grid) P1 = some (ZP, some M00) :=
  readBoardAux_step P2 5 (⟨N0, N0, N2, N1, N2, N1, N0, N0, N2⟩ : Grid) P1 [M00, M01, M20, M21] rfl rfl
    (collectScores_cons v102121002 (collectScores_cons v012121002 (collectScores_cons v002121102 (collectScores_cons v002121012 collectScores_nil)))) rfl

theorem v002121000 : readBoardAux P2 7 (⟨N0, N0, N2, N1, N2, N1, N0, N0, N0⟩ : Grid) P2 = some (ZP, some M00) :=
  readBoardAux_step P2 6 (⟨N0, N0, N2, N1, N2, N1, N0, N0, N0⟩ : Grid) P2 [M00, M01, M20, M21, M22] rfl rfl
    (collectScores_cons v202121000 (collectScores_cons v022121000 (collectScores_cons t002121200 (collectScores_cons v002121020 (collectScores_cons v002121002 collectScores_nil))))) rfl

theorem t002122112 : readBoardAux P2 4 (⟨N0, N0, N2, N1, N2, N2, N1, N1, N2⟩ : Grid) P1 = some (ZP, none) :=
  rfl

theorem v002122110 : readBoardAux P2 5 (⟨N0, N0, N2, N1, N2, N2, N1, N1, N0⟩ : Grid) P2 = some (ZP, some M22) :=
  readBoardAux_step P2 4 (⟨N0, N0, N2, N1, N2, N2, N1, N1, N0⟩ : Grid) P2 [M00, M01, M22] rfl rfl
    (collectScores_cons v202122110 (collectScores_cons v022122110 (collectScores_cons t002122112 collectScores_nil))) rfl

theorem v002122121 : readBoardAux P2 4 (⟨N0, N0, N2, N1, N2, N2, N1, N2, N1⟩ : Grid) P1 = some (ZM, some M00) :=
  readBoardAux_step P2 3 (⟨N0, N0, N2, N1, N2, N2, N1, N2, N1⟩ : Grid) P1 [M00, M01] rfl rfl
    (collectScores_cons t102122121 (collectScores_cons v012122121 collectScores_nil)) rfl

theorem v002122101 : readBoardAux P2 5 (⟨N0, N0, N2, N1, N2, N2, N1, N0, N1⟩ : Grid) P2 = some (ZM, some M00) :=
  readBoardAux_step P2 4 (⟨N0, N0, N2, N1, N2, N2, N1, N0, N1⟩ : Grid) P2 [M00, M01, M21] rfl rfl
    (collectScores_cons v202122101 (collectScores_cons v022122101 (collectScores_cons v002122121 collectScores_nil))) rfl

theorem v002122100 : readBoardAux P2 6 (⟨N0, N0, N2, N1, N2, N2, N1, N0, N0⟩ : Grid) P1 = some (ZM, some M00) :=
  readBoardAux_step P2 5 (⟨N0, N0, N2, N1, N2, N2, N1, N0, N0⟩ : Grid) P1 [M00, M01, M21, M22] rfl rfl
    (collectScores_cons t102122100 (collectScores_cons v012122100 (collectScores_cons v002122110 (collectScores_cons v002122101 collectScores_nil)))) rfl

theorem v002120121 : readBoardAux P2 5 (⟨N0, N0, N2, N1, N2, N0, N1, N2, N1⟩ : Grid) P2 = some (ZP, some M01) :=
  readBoardAux_step P2 4 (⟨N0, N0, N2, N1, N2, N0, N1, N2, N1⟩ : Grid) P2 [M00, M01, M12] rfl rfl
    (collectScores_cons v202120121 (collectScores_cons t022120121 (collectScores_cons v002122121 collectScores_nil))) rfl

theorem v002120120 : readBoardAux P2 6 (⟨N0, N0, N2, N1, N2, N0, N1, N2, N0⟩ : Grid) P1 = some (ZM, some M00) :=
  readBoardAux_step P2 5 (⟨N0, N0, N2, N1, N2, N0, N1, N2, N0⟩ : Grid) P1 [M00, M01, M12, M22] rfl rfl
    (collectScores_cons t102120120 (collectScores_cons v012120120 (collectScores_cons v002121120 (collectScores_cons v002120121 collectScores_nil)))) rfl

theorem v002120112 : readBoardAux P2 5 (⟨N0, N0, N2, N1, N2, N0, N1, N1, N2⟩ : Grid) P2 = some (ZP, some M00) :=
  readBoardAux_step P2 4 (⟨N0, N0, N2, N1, N2, N0, N1, N1, N2⟩ : Grid) P2 [M00, M01, M12] rfl rfl
    (collectScores_cons t202120112 (collectScores_cons v022120112 (collectScores_cons t002122112 collectScores_nil))) rfl

theorem v002120102 : readBoardAux P2 6 (⟨N0, N0, N2, N1, N2, N0, N1, N0, N2⟩ : Grid) P1 = some (ZM, some M00) :=
  readBoardAux_step P2 5 (⟨N0, N0, N2, N1, N2, N0, N1, N0, N2⟩ : Grid) P1 [M00, M01, M12, M21] rfl rfl
    (collectScores_cons t102120102 (collectScores_cons v012120102 (collectScores_cons v002121102 (collectScores_cons v002120112 collectScores_nil)))) rfl

theorem v002120100 : readBoardAux P2 7 (⟨N0, N0, N2, N1, N2, N0, N1, N0, N0⟩ : Grid) P2 = some (ZP, some M00) :=
  readBoardAux_step P2 6 (⟨N0, N0, N2, N1, N2, N0, N1, N0, N0⟩ : Grid) P2 [M00, M01, M12, M21, M22] rfl rfl
    (collectScores_cons v202120100 (collectScores_cons v022120100 (collectScores_cons v002122100 (collectScores_cons v002120120 (collectScores_cons v002120102 collectScores_nil))))) rfl

theorem t002122211 : readBoardAux P2 4 (⟨N0, N0, N2, N1, N2, N2, N2, N1, N1⟩ : Grid) P1 = some (ZP, none) :=
  rfl

theorem v002122011 : readBoardAux P2 5 (⟨N0, N0, N2, N1, N2, N2, N0, N1, N1⟩ : Grid) P2 = some (ZP, some M20) :=
  readBoardAux_step P2 4 (⟨N0, N0, N2, N1, N2, N2, N0, N1, N1⟩ : Grid) P2 [M00, M01, M20] rfl rfl
    (collectScores_cons v202122011 (collectScores_cons v022122011 (collectScores_cons t002122211 collectScores_nil))) rfl

theorem v002122010 : readBoardAux P2 6 (⟨N0, N0, N2, N1, N2, N2, N0, N1, N0⟩ : Grid) P1 = some (ZP, some M00) :=
  readBoardAux_step P2 5 (⟨N0, N0, N2, N1, N2, N2, N0, N1, N0⟩ : Grid) P1 [M00, M01, M20, M22] rfl rfl
    (collectScores_cons v102122010 (collectScores_cons v012122010 (collectScores_cons v002122110 (collectScores_cons v002122011 collectScores_nil)))) rfl

theorem t002120210 : readBoardAux P2 6 (⟨N0, N0, N2, N1, N2, N0, N2, N1, N0⟩ : Grid) P1 = some (ZP, none) :=
  rfl

theorem v002120012 : readBoardAux P2 6 (⟨N0, N0, N2, N1, N2, N0, N0, N1, N2⟩ : Grid) P1 = some (ZP, some M00) :=
  readBoardAux_step P2 5 (⟨N0, N0, N2, N1, N2, N0, N0, N1, N2⟩ : Grid) P1 [M00, M01, M12, M20] rfl rfl
    (collectScores_cons v102120012 (collectScores_cons v012120012 (collectScores_cons v002121012 (collectScores_cons v002120112 collectScores_nil)))) rfl

theorem v002120010 : readBoardAux P2 7 (⟨N0, N0, N2, N1, N2, N0, N0, N1, N0⟩ : Grid) P2 = some (ZP, some M00) :=
  readBoardAux_step P2 6 (⟨N0, N0, N2, N1, N2, N0, N0, N1, N0⟩ : Grid) P2 [M00, M01, M12, M20, M22] rfl rfl
    (collectScores_cons v202120010 (collectScores_cons v022120010 (collectScores_cons v002122010 (collectScores_cons t002120210 (collectScores_cons v002120012 collectScores_nil))))) rfl

theorem v002122001 : readBoardAux P2 6 (⟨N0, N0, N2, N1, N2, N2, N0, N0, N1⟩ : Grid) P1 = some (ZM, some M20) :=
  readBoardAux_step P2 5 (⟨N0, N0, N2, N1, N2, N2, N0, N0, N1⟩ : Grid) P1 [M00, M01, M20, M21] rfl rfl
    (collectScores_cons v102122001 (collectScores_cons v012122001 (collectScores_cons v002122101 (collectScores_cons v002122011 collectScores_nil)))) rfl

theorem t002120201 : readBoardAux P2 6 (⟨N0, N0, N2, N1, N2, N0, N2, N0, N1⟩ : Grid) P1 = some (ZP, none) :=
  rfl

theorem v002120021 : readBoardAux P2 6 (⟨N0, N0, N2, N1, N2, N0, N0, N2, N1⟩ : Grid) P1 = some (ZP, some M00) :=
  readBoardAux_step P2 5 (⟨N0, N0, N2, N1, N2, N0, N0, N2, N1⟩ : Grid) P1 [M00, M01, M12, M20] rfl rfl
    (collectScores_cons v102120021 (collectScores_cons v012120021 (collectScores_cons v002121021 (collectScores_cons v002120121 collectScores_nil)))) rfl

theorem v002120001 : readBoardAux P2 7 (⟨N0, N0, N2, N1, N2, N0, N0, N0, N1⟩ : Grid) P2 = some (ZP, some M00) :=
  readBoardAux_step P2 6 (⟨N0, N0, N2, N1, N2, N0, N0, N0, N1⟩ : Grid) P2 [M00, M01, M12, M20, M21] rfl rfl
    (collectScores_cons v202120001 (collectScores_cons v022120001 (collectScores_cons v002122001 (collectScores_cons t002120201 (collectScores_cons v002120021 collectScores_nil))))) rfl

theorem v002120000 : readBoardAux P2 8 (⟨N0, N0, N2, N1, N2, N0, N0, N0, N0⟩ : Grid) P1 = some (ZP, some M00) :=
  readBoardAux_step P2 7 (⟨N0, N0, N2, N1, N2, N0, N0, N0, N0⟩ : Grid) P1 [M00, M01, M12, M20, M21, M22] rfl rfl
    (collectScores_cons v102120000 (collectScores_cons v012120000 (collectScores_cons v002121000 (collectScores_cons v002120100 (collectScores_cons v002120010 (collectScores_cons v002120001 collectScores_nil)))))) rfl

theorem t002112212 : readBoardAux P2 4 (⟨N0, N0, N2, N1, N1, N2, N2, N1, N2⟩ : Grid) P1 = some (ZP, none) :=
  rfl

theorem v002112210 : readBoardAux P2 5 (⟨N0, N0, N2, N1, N1, N2, N2, N1, N0⟩ : Grid) P2 = some (ZP, some M01) :=
  readBoardAux_step P2 4 (⟨N0, N0, N2, N1, N1, N2, N2, N1, N0⟩ : Grid) P2 [M00, M01, M22] rfl rfl
    (collectScores_cons v202112210 (collectScores_cons v022112210 (collectScores_cons t002112212 collectScores_nil))) rfl

theorem v002112221 : readBoardAux P2 4 (⟨N0, N0, N2, N1, N1, N2, N2, N2, N1⟩ : Grid) P1 = some (ZM, some M00) :=
  readBoardAux_step P2 3 (⟨N0, N0, N2, N1, N1, N2, N2, N2, N1⟩ : Grid) P1 [M00, M01] rfl rfl
    (collectScores_cons t102112221 (collectScores_cons v012112221 collectScores_nil)) rfl

theorem v002112201 : readBoardAux P2 5 (⟨N0, N0, N2, N1, N1, N2, N2, N0, N1⟩ : Grid) P2 = some (Z0, some M00) :=
  readBoardAux_step P2 4 (⟨N0, N0, N2, N1, N1, N2, N2, N0, N1⟩ : Grid) P2 [M00, M01, M21] rfl rfl
    (collectScores_cons v202112201 (collectScores_cons v022112201 (collectScores_cons v002112221 collectScores_nil))) rfl

theorem v002112200 : readBoardAux P2 6 (⟨N0, N0, N2, N1, N1, N2, N2, N0, N0⟩ : Grid) P1 = some (Z0, some M22) :=
  readBoardAux_step P2 5 (⟨N0, N0, N2, N1, N1, N2, N2, N0, N0⟩ : Grid) P1 [M00, M01, M21, M22] rfl rfl
    (collectScores_cons v102112200 (collectScores_cons v012112200 (collectScores_cons v002112210 (collectScores_cons v002112201 collectScores_nil)))) rfl

theorem t002112122 : readBoardAux P2 4 (⟨N0, N0, N2, N1, N1, N2, N1, N2, N2⟩ : Grid) P1 = some (ZP, none) :=
  rfl

theorem v002112120 : readBoardAux P2 5 (⟨N0, N0, N2, N1, N1, N2, N1, N2, N0⟩ : Grid) P2 = some (ZP, some M00) :=
  readBoardAux_step P2 4 (⟨N0, N0, N2, N1, N1, N2, N1, N2, N0⟩ : Grid) P2 [M00, M01, M22] rfl rfl
    (collectScores_cons v202112120 (collectScores_cons v022112120 (collectScores_cons t002112122 collectScores_nil))) rfl

theorem v002112021 : readBoardAux P2 5 (⟨N0, N0, N2, N1, N1, N2, N0, N2, N1⟩ : Grid) P2 = some (Z0, some M00) :=
  readBoardAux_step P2 4 (⟨N0, N0, N2, N1, N1, N2, N0, N2, N1⟩ : Grid) P2 [M00, M01, M20] rfl rfl
    (collectScores_cons v202112021 (collectScores_cons v022112021 (collectScores_cons v002112221 collectScores_nil))) rfl

theorem v002112020 : readBoardAux P2 6 (⟨N0, N0, N2, N1, N1, N2, N0, N2, N0⟩ : Grid) P1 = some (Z0, some M22) :=
  readBoardAux_step P2 5 (⟨N0, N0, N2, N1, N1, N2, N0, N2, N0⟩ : Grid) P1 [M00, M01, M20, M22] rfl rfl
    (collectScores_cons v102112020 (collectScores_cons v012112020 (collectScores_cons v002112120 (collectScores_cons v002112021 collectScores_nil)))) rfl

theorem t002112002 : readBoardAux P2 6 (⟨N0, N0, N2, N1, N1, N2, N0, N0, N2⟩ : Grid) P1 = some (ZP, none) :=
  rfl

theorem v002112000 : readBoardAux P2 7 (⟨N0, N0, N2, N1, N1, N2, N0, N0, N0⟩ : Grid) P2 = some (ZP, some M00) :=
  readBoardAux_step P2 6 (⟨N0, N0, N2, N1, N1, N2, N0, N0, N0⟩ : Grid) P2 [M00, M01, M20, M21, M22] rfl rfl
    (collectScores_cons v202112000 (collectScores_cons v022112000 (collectScores_cons v002112200 (collectScores_cons v002112020 (collectScores_cons t002112002 collectScores_nil))))) rfl

theorem v002102121 : readBoardAux P2 5 (⟨N0, N0, N2, N1, N0, N2, N1, N2, N1⟩ : Grid) P2 = some (Z0, some M00) :=
  readBoardAux_step P2 4 (⟨N0, N0, N2, N1, N0, N2, N1, N2, N1⟩ : Grid) P2 [M00, M01, M11] rfl rfl
    (collectScores_cons v202102121 (collectScores_cons v022102121 (collectScores_cons v002122121 collectScores_nil))) rfl

theorem v002102120 : readBoardAux P2 6 (⟨N0, N0, N2, N1, N0, N2, N1, N2, N0⟩ : Grid) P1 = some (ZM, some M00) :=
  readBoardAux_step P2 5 (⟨N0, N0, N2, N1, N0, N2, N1, N2, N0⟩ : Grid) P1 [M00, M01, M11, M22] rfl rfl
    (collectScores_cons t102102120 (collectScores_cons v012102120 (collectScores_cons v002112120 (collectScores_cons v002102121 collectScores_nil)))) rfl

theorem t002102102 : readBoardAux P2 6 (⟨N0, N0, N2, N1, N0, N2, N1, N0, N2⟩ : Grid) P1 = some (ZP, none) :=
  rfl

theorem v002102100 : readBoardAux P2 7 (⟨N0, N0, N2, N1, N0, N2, N1, N0, N0⟩ : Grid) P2 = some (ZP, some M00) :=
  readBoardAux_step P2 6 (⟨N0, N0, N2, N1, N0, N2, N1, N0, N0⟩ : Grid) P2 [M00, M01, M11, M21, M22] rfl rfl
    (collectScores_cons v202102100 (collectScores_cons v022102100 (collectScores_cons v002122100 (collectScores_cons v002102120 (collectScores_cons t002102102 collectScores_nil))))) rfl

theorem v002102211 : readBoardAux P2 5 (⟨N0, N0, N2, N1, N0, N2, N2, N1, N1⟩ : Grid) P2 = some (ZP, some M00) :=
  readBoardAux_step P2 4 (⟨N0, N0, N2, N1, N0, N2, N2, N1, N1⟩ : Grid) P2 [M00, M01, M11] rfl rfl
    (collectScores_cons v202102211 (collectScores_cons v022102211 (collectScores_cons t002122211 collectScores_nil))) rfl

theorem v002102210 : readBoardAux P2 6 (⟨N0, N0, N2, N1, N0, N2, N2, N1, N0⟩ : Grid) P1 = some (ZP, some M00) :=
  readBoardAux_step P2 5 (⟨N0, N0, N2, N1, N0, N2, N2, N1, N0⟩ : Grid) P1 [M00, M01, M11, M22] rfl rfl
    (collectScores_cons v102102210 (collectScores_cons v012102210 (collectScores_cons v002112210 (collectScores_cons v002102211 collectScores_nil)))) rfl

theorem t002102012 : readBoardAux P2 6 (⟨N0, N0, N2, N1, N0, N2, N0, N1, N2⟩ : Grid) P1 = some (ZP, none) :=
  rfl

theorem v002102010 : readBoardAux P2 7 (⟨N0, N0, N2, N1, N0, N2, N0, N1, N0⟩ : Grid) P2 = some (ZP, some M00) :=
  readBoardAux_step P2 6 (⟨N0, N0, N2, N1, N0, N2, N0, N1, N0⟩ : Grid) P2 [M00, M01, M11, M20, M22] rfl rfl
    (collectScores_cons v202102010 (collectScores_cons v022102010 (collectScores_cons v002122010 (collectScores_cons v002102210 (collectScores_cons t002102012 collectScores_nil))))) rfl

theorem v002102201 : readBoardAux P2 6 (⟨N0, N0, N2, N1, N0, N2, N2, N0, N1⟩ : Grid) P1 = some (Z0, some M11) :=
  readBoardAux_step P2 5 (⟨N0, N0, N2, N1, N0, N2, N2, N0, N1⟩ : Grid) P1 [M00, M01, M11, M21] rfl rfl
    (collectScores_cons v102102201 (collectScores_cons v012102201 (collectScores_cons v002112201 (collectScores_cons v002102211 collectScores_nil)))) rfl

theorem v002102021 : readBoardAux P2 6 (⟨N0, N0, N2, N1, N0, N2, N0, N2, N1⟩ : Grid) P1 = some (ZM, some M00) :=
  readBoardAux_step P2 5 (⟨N0, N0, N2, N1, N0, N2, N0, N2, N1⟩ : Grid) P1 [M00, M01, M11, M20] rfl rfl
    (collectScores_cons v102102021 (collectScores_cons v012102021 (collectScores_cons v002112021 (collectScores_cons v002102121 collectScores_nil)))) rfl

theorem v002102001 : readBoardAux P2 7 (⟨N0, N0, N2, N1, N0, N2, N0, N0, N1⟩ : Grid) P2 = some (Z0, some M00) :=
  readBoardAux_step P2 6 (⟨N0, N0, N2, N1, N0, N2, N0, N0, N1⟩ : Grid) P2 [M00, M01, M11, M20, M21] rfl rfl
    (collectScores_cons v202102001 (collectScores_cons v022102001 (collectScores_cons v002122001 (collectScores_cons v002102201 (collectScores_cons v002102021 collectScores_nil))))) rfl

theorem v002102000 : readBoardAux P2 8 (⟨N0, N0, N2, N1, N0, N2, N0, N0, N0⟩ : Grid) P1 = some (Z0, some M22) :=
  readBoardAux_step P2 7 (⟨N0, N0, N2, N1, N0, N2, N0, N0, N0⟩ : Grid) P1 [M00, M01, M11, M20, M21, M22] rfl rfl
    (collectScores_cons v102102000 (collectScores_cons v012102000 (collectScores_cons v002112000 (collectScores_cons v002102100 (collectScores_cons v002102010 (collectScores_cons v002102001 collectScores_nil)))))) rfl

theorem t002111220 : readBoardAux P2 5 (⟨N0, N0, N2, N1, N1, N1, N2, N2, N0⟩ : Grid) P2 = some (ZM, none) :=
  rfl

theorem v002110221 : readBoardAux P2 5 (⟨N0, N0, N2, N1, N1, N0, N2, N2, N1⟩ : Grid) P2 = some (ZM, some M00) :=
  readBoardAux_step P2 4 (⟨N0, N0, N2, N1, N1, N0, N2, N2, N1⟩ : Grid) P2 [M00, M01, M12] rfl rfl
    (collectScores_cons v202110221 (collectScores_cons v022110221 (collectScores_cons v002112221 collectScores_nil))) rfl

theorem v002110220 : readBoardAux P2 6 (⟨N0, N0, N2, N1, N1, N0, N2, N2, N0⟩ : Grid) P1 = some (ZM, some M12) :=
  readBoardAux_step P2 5 (⟨N0, N0, N2, N1, N1, N0, N2, N2, N0⟩ : Grid) P1 [M00, M01, M12, M22] rfl rfl
    (collectScores_cons v102110220 (collectScores_cons v012110220 (collectScores_cons t002111220 (collectScores_cons v002110221 collectScores_nil)))) rfl

theorem t002111202 : readBoardAux P2 5 (⟨N0, N0, N2, N1, N1, N1, N2, N0, N2⟩ : Grid) P2 = some (ZM, none) :=
  rfl

theorem v002110212 : readBoardAux P2 5 (⟨N0, N0, N2, N1, N1, N0, N2, N1, N2⟩ : Grid) P2 = some (ZP, some M12) :=
  readBoardAux_step P2 4 (⟨N0, N0, N2, N1, N1, N0, N2, N1, N2⟩ : Grid) P2 [M00, M01, M12] rfl rfl
    (collectScores_cons v202110212 (collectScores_cons v022110212 (collectScores_cons t002112212 collectScores_nil))) rfl

theorem v002110202 : readBoardAux P2 6 (⟨N0, N0, N2, N1, N1, N0, N2, N0, N2⟩ : Grid) P1 = some (ZM, some M12) :=
  readBoardAux_step P2 5 (⟨N0, N0, N2, N1, N1, N0, N2, N0, N2⟩ : Grid) P1 [M00, M01, M12, M21] rfl rfl
    (collectScores_cons v102110202 (collectScores_cons v012110202 (collectScores_cons t002111202 (collectScores_cons v002110212 collectScores_nil)))) rfl

theorem v002110200 : readBoardAux P2 7 (⟨N0, N0, N2, N1, N1, N0, N2, N0, N0⟩ : Grid) P2 = some (Z0, some M12) :=
  readBoardAux_step P2 6 (⟨N0, N0, N2, N1, N1, N0, N2, N0, N0⟩ : Grid) P2 [M00, M01, M12, M21, M22] rfl rfl
    (collectScores_cons v202110200 (collectScores_cons v022110200 (collectScores_cons v002112200 (collectScores_cons v002110220 (collectScores_cons v002110202 collectScores_nil))))) rfl

theorem v002101221 : readBoardAux P2 5 (⟨N0, N0, N2, N1, N0, N1, N2, N2, N1⟩ : Grid) P2 = some (ZP, some M11) :=
  readBoardAux_step P2 4 (⟨N0, N0, N2, N1, N0, N1, N2, N2, N1⟩ : Grid) P2 [M00, M01, M11] rfl rfl
    (collectScores_cons v202101221 (collectScores_cons v022101221 (collectScores_cons t002121221 collectScores_nil))) rfl

theorem v002101220 : readBoardAux P2 6 (⟨N0, N0, N2, N1, N0, N1, N2, N2, N0⟩ : Grid) P1 = some (ZM, some M11) :=
  readBoardAux_step P2 5 (⟨N0, N0, N2, N1, N0, N1, N2, N2, N0⟩ : Grid) P1 [M00, M01, M11, M22] rfl rfl
    (collectScores_cons v102101220 (collectScores_cons v012101220 (collectScores_cons t002111220 (collectScores_cons v002101221 collectScores_nil)))) rfl

theorem v002101212 : readBoardAux P2 5 (⟨N0, N0, N2, N1, N0, N1, N2, N1, N2⟩ : Grid) P2 = some (ZP, some M11) :=
  readBoardAux_step P2 4 (⟨N0, N0, N2, N1, N0, N1, N2, N1, N2⟩ : Grid) P2 [M00, M01, M11] rfl rfl
    (collectScores_cons v202101212 (collectScores_cons v022101212 (collectScores_cons t002121212 collectScores_nil))) rfl

theorem v002101202 : readBoardAux P2 6 (⟨N0, N0, N2, N1, N0, N1, N2, N0, N2⟩ : Grid) P1 = some (ZM, some M11) :=
  readBoardAux_step P2 5 (⟨N0, N0, N2, N1, N0, N1, N2, N0, N2⟩ : Grid) P1 [M00, M01, M11, M21] rfl rfl
    (collectScores_cons v102101202 (collectScores_cons v012101202 (collectScores_cons t002111202 (collectScores_cons v002101212 collectScores_nil)))) rfl

theorem v002101200 : readBoardAux P2 7 (⟨N0, N0, N2, N1, N0, N1, N2, N0, N0⟩ : Grid) P2 = some (ZP, some M11) :=
  readBoardAux_step P2 6 (⟨N0, N0, N2, N1, N0, N1, N2, N0, N0⟩ : Grid) P2 [M00, M01, M11, M21, M22] rfl rfl
    (collectScores_cons v202101200 (collectScores_cons v022101200 (collectScores_cons t002121200 (collectScores_cons v002101220 (collectScores_cons v002101202 collectScores_nil))))) rfl

theorem v002100212 : readBoardAux P2 6 (⟨N0, N0, N2, N1, N0, N0, N2, N1, N2⟩ : Grid) P1 = some (ZP, some M00) :=
  readBoardAux_step P2 5 (⟨N0, N0, N2, N1, N0, N0, N2, N1, N2⟩ : Grid) P1 [M00, M01, M11, M12] rfl rfl
    (collectScores_cons v102100212 (collectScores_cons v012100212 (collectScores_cons v002110212 (collectScores_cons v002101212 collectScores_nil)))) rfl

theorem v002100210 : readBoardAux P2 7 (⟨N0, N0, N2, N1, N0, N0, N2, N1, N0⟩ : Grid) P2 = some (ZP, some M00) :=
  readBoardAux_step P2 6 (⟨N0, N0, N2, N1, N0, N0, N2, N1, N0⟩ : Grid) P2 [M00, M01, M11, M12, M22] rfl rfl
    (collectScores_cons v202100210 (collectScores_cons v022100210 (collectScores_cons t002120210 (collectScores_cons v002102210 (collectScores_cons v002100212 collectScores_nil))))) rfl

theorem v002100221 : readBoardAux P2 6 (⟨N0, N0, N2, N1, N0, N0, N2, N2, N1⟩ : Grid) P1 = some (ZM, some M11) :=
  readBoardAux_step P2 5 (⟨N0, N0, N2, N1, N0, N0, N2, N2, N1⟩ : Grid) P1 [M00, M01, M11, M12] rfl rfl
    (collectScores_cons v102100221 (collectScores_cons v012100221 (collectScores_cons v002110221 (collectScores_cons v002101221 collectScores_nil)))) rfl

theorem v002100201 : readBoardAux P2 7 (⟨N0, N0, N2, N1, N0, N0, N2, N0, N1⟩ : Grid) P2 = some (ZP, some M00) :=
  readBoardAux_step P2 6 (⟨N0, N0, N2, N1, N0, N0, N2, N0, N1⟩ : Grid) P2 [M00, M01, M11, M12, M21] rfl rfl
    (collectScores_cons v202100201 (collectScores_cons v022100201 (collectScores_cons t002120201 (collectScores_cons v002102201 (collectScores_cons v002100221 collectScores_nil))))) rfl

theorem v002100200 : readBoardAux P2 8 (⟨N0, N0, N2, N1, N0, N0, N2, N0, N0⟩ : Grid) P1 = some (Z0, some M11) :=
  readBoardAux_step P2 7 (⟨N0, N0, N2, N1, N0, N0, N2, N0, N0⟩ : Grid) P1 [M00, M01, M11, M12, M21, M22] rfl rfl
    (collectScores_cons v102100200 (collectScores_cons v012100200 (collectScores_cons v002110200 (collectScores_cons v002101200 (collectScores_cons v002100210 (collectScores_cons v002100201 collectScores_nil)))))) rfl

theorem t002111022 : readBoardAux P2 5 (⟨N0, N0, N2, N1, N1, N1, N0, N2, N2⟩ : Grid) P2 = some (ZM, none) :=
  rfl

theorem v002110122 : readBoardAux P2 5 (⟨N0, N0, N2, N1, N1, N0, N1, N2, N2⟩ : Grid) P2 = some (ZP, some M12) :=
  readBoardAux_step P2 4 (⟨N0, N0, N2, N1, N1, N0, N1, N2, N2⟩ : Grid) P2 [M00, M01, M12] rfl rfl
    (collectScores_cons v202110122 (collectScores_cons v022110122 (collectScores_cons t002112122 collectScores_nil))) rfl

theorem v002110022 : readBoardAux P2 6 (⟨N0, N0, N2, N1, N1, N0, N0, N2, N2⟩ : Grid) P1 = some (ZM, some M12) :=
  readBoardAux_step P2 5 (⟨N0, N0, N2, N1, N1, N0, N0, N2, N2⟩ : Grid) P1 [M00, M01, M12, M20] rfl rfl
    (collectScores_cons v102110022 (collectScores_cons v012110022 (collectScores_cons t002111022 (collectScores_cons v002110122 collectScores_nil)))) rfl

theorem v002110020 : readBoardAux P2 7 (⟨N0, N0, N2, N1, N1, N0, N0, N2, N0⟩ : Grid) P2 = some (Z0, some M12) :=
  readBoardAux_step P2 6 (⟨N0, N0, N2, N1, N1, N0, N0, N2, N0⟩ : Grid) P2 [M00, M01, M12, M20, M22] rfl rfl
    (collectScores_cons v202110020 (collectScores_cons v022110020 (collectScores_cons v002112020 (collectScores_cons v002110220 (collectScores_cons v002110022 collectScores_nil))))) rfl

theorem v002101122 : readBoardAux P2 5 (⟨N0, N0, N2, N1, N0, N1, N1, N2, N2⟩ : Grid) P2 = some (ZM, some M00) :=
  readBoardAux_step P2 4 (⟨N0, N0, N2, N1, N0, N1, N1, N2, N2⟩ : Grid) P2 [M00, M01, M11] rfl rfl
    (collectScores_cons v202101122 (collectScores_cons v022101122 (collectScores_cons v002121122 collectScores_nil))) rfl

theorem v002101022 : readBoardAux P2 6 (⟨N0, N0, N2, N1, N0, N1, N0, N2, N2⟩ : Grid) P1 = some (ZM, some M11) :=
  readBoardAux_step P2 5 (⟨N0, N0, N2, N1, N0, N1, N0, N2, N2⟩ : Grid) P1 [M00, M01, M11, M20] rfl rfl
    (collectScores_cons v102101022 (collectScores_cons v012101022 (collectScores_cons t002111022 (collectScores_cons v002101122 collectScores_nil)))) rfl

theorem v002101020 : readBoardAux P2 7 (⟨N0, N0, N2, N1, N0, N1, N0, N2, N0⟩ : Grid) P2 = some (ZP, some M11) :=
  readBoardAux_step P2 6 (⟨N0, N0, N2, N1, N0, N1, N0, N2, N0⟩ : Grid) P2 [M00, M01, M11, M20, M22] rfl rfl
    (collectScores_cons v202101020 (collectScores_cons v022101020 (collectScores_cons v002121020 (collectScores_cons v002101220 (collectScores_cons v002101022 collectScores_nil))))) rfl

theorem v002100122 : readBoardAux P2 6 (⟨N0, N0, N2, N1, N0, N0, N1, N2, N2⟩ : Grid) P1 = some (ZM, some M00) :=
  readBoardAux_step P2 5 (⟨N0, N0, N2, N1, N0, N0, N1, N2, N2⟩ : Grid) P1 [M00, M01, M11, M12] rfl rfl
    (collectScores_cons t102100122 (collectScores_cons v012100122 (collectScores_cons v002110122 (collectScores_cons v002101122 collectScores_nil)))) rfl

theorem v002100120 : readBoardAux P2 7 (⟨N0, N0, N2, N1, N0, N0, N1, N2, N0⟩ : Grid) P2 = some (ZP, some M00) :=
  readBoardAux_step P2 6 (⟨N0, N0, N2, N1, N0, N0, N1, N2, N0⟩ : Grid) P2 [M00, M01, M11, M12, M22] rfl rfl
    (collectScores_cons v202100120 (collectScores_cons v022100120 (collectScores_cons v002120120 (collectScores_cons v002102120 (collectScores_cons v002100122 collectScores_nil))))) rfl

theorem v002100021 : readBoardAux P2 7 (⟨N0, N0, N2, N1, N0, N0, N0, N2, N1⟩ : Grid) P2 = some (ZP, some M01) :=
  readBoardAux_step P2 6 (⟨N0, N0, N2, N1, N0, N0, N0, N2, N1⟩ : Grid) P2 [M00, M01, M11, M12, M20] rfl rfl
    (collectScores_cons v202100021 (collectScores_cons v022100021 (collectScores_cons v002120021 (collectScores_cons v002102021 (collectScores_cons v002100221 collectScores_nil))))) rfl

theorem v002100020 : readBoardAux P2 8 (⟨N0, N0, N2, N1, N0, N0, N0, N2, N0⟩ : Grid) P1 = some (Z0, some M11) :=
  readBoardAux_step P2 7 (⟨N0, N0, N2, N1, N0, N0, N0, N2, N0⟩ : Grid) P1 [M00, M01, M11, M12, M20, M22] rfl rfl
    (collectScores_cons v102100020 (collectScores_cons v012100020 (collectScores_cons v002110020 (collectScores_cons v002101020 (collectScores_cons v002100120 (collectScores_cons v002100021 collectScores_nil)))))) rfl

theorem v002110002 : readBoardAux P2 7 (⟨N0, N0, N2, N1, N1, N0, N0, N0, N2⟩ : Grid) P2 = some (ZP, some M12) :=
  readBoardAux_step P2 6 (⟨N0, N0, N2, N1, N1, N0, N0, N0, N2⟩ : Grid) P2 [M00, M01, M12, M20, M21] rfl rfl
    (collectScores_cons v202110002 (collectScores_cons v022110002 (collectScores_cons t002112002 (collectScores_cons v002110202 (collectScores_cons v002110022 collectScores_nil))))) rfl

theorem v002101002 : readBoardAux P2 7 (⟨N0, N0, N2, N1, N0, N1, N0, N0, N2⟩ : Grid) P2 = some (ZP, some M11) :=
  readBoardAux_step P2 6 (⟨N0, N0, N2, N1, N0, N1, N0, N0, N2⟩ : Grid) P2 [M00, M01, M11, M20, M21] rfl rfl
    (collectScores_cons v202101002 (collectScores_cons v022101002 (collectScores_cons v002121002 (collectScores_cons v002101202 (collectScores_cons v002101022 collectScores_nil))))) rfl

theorem v002100102 : readBoardAux P2 7 (⟨N0, N0, N2, N1, N0, N0, N1, N0, N2⟩ : Grid) P2 = some (ZP, some M00) :=
  readBoardAux_step P2 6 (⟨N0, N0, N2, N1, N0, N0, N1, N0, N2⟩ : Grid) P2 [M00, M01, M11, M12, M21] rfl rfl
    (collectScores_cons v202100102 (collectScores_cons v022100102 (collectScores_cons v002120102 (collectScores_cons t002102102 (collectScores_cons v002100122 collectScores_nil))))) rfl

theorem v002100012 : readBoardAux P2 7 (⟨N0, N0, N2, N1, N0, N0, N0, N1, N2⟩ : Grid) P2 = some (ZP, some M00) :=
  readBoardAux_step P2 6 (⟨N0, N0, N2, N1, N0, N0, N0, N1, N2⟩ : Grid) P2 [M00, M01, M11, M12, M20] rfl rfl
    (collectScores_cons v202100012 (collectScores_cons v022100012 (collectScores_cons v002120012 (collectScores_cons t002102012 (collectScores_cons v002100212 collectScores_nil))))) rfl

theorem v002100002 : readBoardAux P2 8 (⟨N0, N0, N2, N1, N0, N0, N0, N0, N2⟩ : Grid) P1 = some (ZP, some M00) :=
  readBoardAux_step P2 7 (⟨N0, N0, N2, N1, N0, N0, N0, N0, N2⟩ : Grid) P1 [M00, M01, M11, M12, M20, M21] rfl rfl
    (collectScores_cons v102100002 (collectScores_cons v012100002 (collectScores_cons v002110002 (collectScores_cons v002101002 (collectScores_cons v002100102 (collectScores_cons v002100012 collectScores_nil)))))) rfl

theorem v002100000 : readBoardAux P2 9 (⟨N0, N0, N2, N1, N0, N0, N0, N0, N0⟩ : Grid) P2 = some (ZP, some M00) :=
  readBoardAux_step P2 8 (⟨N0, N0, N2, N1, N0, N0, N0, N0, N0⟩ : Grid) P2 [M00, M01, M11, M12, M20, M21, M22] rfl rfl
    (collectScores_cons v202100000 (collectScores_cons v022100000 (collectScores_cons v002120000 (collectScores_cons v002102000 (collectScores_cons v002100200 (collectScores_cons v002100020 (collectScores_cons v002100002 collectScores_nil))))))) rfl

theorem v002211212 : readBoardAux P2 4 (⟨N0, N0, N2, N2, N1, N1, N2, N1, N2⟩ : Grid) P1 = some (ZM, some M01) :=
  readBoardAux_step P2 3 (⟨N0, N0, N2, N2, N1, N1, N2, N1, N2⟩ : Grid) P1 [M00, M01] rfl rfl
    (collectScores_cons v102211212 (collectScores_cons t012211212 collectScores_nil)) rfl

theorem v002211210 : readBoardAux P2 5 (⟨N0, N0, N2, N2, N1, N1, N2, N1, N0⟩ : Grid) P2 = some (ZP, some M00) :=
  readBoardAux_step P2 4 (⟨N0, N0, N2, N2, N1, N1, N2, N1, N0⟩ : Grid) P2 [M00, M01, M22] rfl rfl
    (collectScores_cons t202211210 (collectScores_cons v022211210 (collectScores_cons v002211212 collectScores_nil))) rfl

theorem v002211221 : readBoardAux P2 4 (⟨N0, N0, N2, N2, N1, N1, N2, N2, N1⟩ : Grid) P1 = some (ZM, some M00) :=
  readBoardAux_step P2 3 (⟨N0, N0, N2, N2, N1, N1, N2, N2, N1⟩ : Grid) P1 [M00, M01] rfl rfl
    (collectScores_cons t102211221 (collectScores_cons v012211221 collectScores_nil)) rfl

theorem v002211201 : readBoardAux P2 5 (⟨N0, N0, N2, N2, N1, N1, N2, N0, N1⟩ : Grid) P2 = some (ZP, some M00) :=
  readBoardAux_step P2 4 (⟨N0, N0, N2, N2, N1, N1, N2, N0, N1⟩ : Grid) P2 [M00, M01, M21] rfl rfl
    (collectScores_cons t202211201 (collectScores_cons v022211201 (collectScores_cons v002211221 collectScores_nil))) rfl

theorem v002211200 : readBoardAux P2 6 (⟨N0, N0, N2, N2, N1, N1, N2, N0, N0⟩ : Grid) P1 = some (Z0, some M00) :=
  readBoardAux_step P2 5 (⟨N0, N0, N2, N2, N1, N1, N2, N0, N0⟩ : Grid) P1 [M00, M01, M21, M22] rfl rfl
    (collectScores_cons v102211200 (collectScores_cons v012211200 (collectScores_cons v002211210 (collectScores_cons v002211201 collectScores_nil)))) rfl

theorem v002211122 : readBoardAux P2 4 (⟨N0, N0, N2, N2, N1, N1, N1, N2, N2⟩ : Grid) P1 = some (Z0, some M00) :=
  readBoardAux_step P2 3 (⟨N0, N0, N2, N2, N1, N1, N1, N2, N2⟩ : Grid) P1 [M00, M01] rfl rfl
    (collectScores_cons v102211122 (collectScores_cons v012211122 collectScores_nil)) rfl

theorem v002211120 : readBoardAux P2 5 (⟨N0, N0, N2, N2, N1, N1, N1, N2, N0⟩ : Grid) P2 = some (Z0, some M00) :=
  readBoardAux_step P2 4 (⟨N0, N0, N2, N2, N1, N1, N1, N2, N0⟩ : Grid) P2 [M00, M01, M22] rfl rfl
    (collectScores_cons v202211120 (collectScores_cons v022211120 (collectScores_cons v002211122 collectScores_nil))) rfl

theorem v002211021 : readBoardAux P2 5 (⟨N0, N0, N2, N2, N1, N1, N0, N2, N1⟩ : Grid) P2 = some (ZP, some M00) :=
  readBoardAux_step P2 4 (⟨N0, N0, N2, N2, N1, N1, N0, N2, N1⟩ : Grid) P2 [M00, M01, M20] rfl rfl
    (collectScores_cons v202211021 (collectScores_cons v022211021 (collectScores_cons v002211221 collectScores_nil))) rfl

theorem v002211020 : readBoardAux P2 6 (⟨N0, N0, N2, N2, N1, N1, N0, N2, N0⟩ : Grid) P1 = some (Z0, some M00) :=
  readBoardAux_step P2 5 (⟨N0, N0, N2, N2, N1, N1, N0, N2, N0⟩ : Grid) P1 [M00, M01, M20, M22] rfl rfl
    (collectScores_cons v102211020 (collectScores_cons v012211020 (collectScores_cons v002211120 (collectScores_cons v002211021 collectScores_nil)))) rfl

theorem v002211102 : readBoardAux P2 5 (⟨N0, N0, N2, N2, N1, N1, N1, N0, N2⟩ : Grid) P2 = some (Z0, some M00) :=
  readBoardAux_step P2 4 (⟨N0, N0, N2, N2, N1, N1, N1, N0, N2⟩ : Grid) P2 [M00, M01, M21] rfl rfl
    (collectScores_cons v202211102 (collectScores_cons v022211102 (collectScores_cons v002211122 collectScores_nil))) rfl

theorem v002211012 : readBoardAux P2 5 (⟨N0, N0, N2, N2, N1, N1, N0, N1, N2⟩ : Grid) P2 = some (Z0, some M01) :=
  readBoardAux_step P2 4 (⟨N0, N0, N2, N2, N1, N1, N0, N1, N2⟩ : Grid) P2 [M00, M01, M20] rfl rfl
    (collectScores_cons v202211012 (collectScores_cons v022211012 (collectScores_cons v002211212 collectScores_nil))) rfl

theorem v002211002 : readBoardAux P2 6 (⟨N0, N0, N2, N2, N1, N1, N0, N0, N2⟩ : Grid) P1 = some (Z0, some M00) :=
  readBoardAux_step P2 5 (⟨N0, N0, N2, N2, N1, N1, N0, N0, N2⟩ : Grid) P1 [M00, M01, M20, M21] rfl rfl
    (collectScores_cons v102211002 (collectScores_cons v012211002 (collectScores_cons v002211102 (collectScores_cons v002211012 collectScores_nil)))) rfl

theorem v002211000 : readBoardAux P2 7 (⟨N0, N0, N2, N2, N1, N1, N0, N0, N0⟩ : Grid) P2 = some (ZP, some M00) :=
  readBoardAux_step P2 6 (⟨N0, N0, N2, N2, N1, N1, N0, N0, N0⟩ : Grid) P2 [M00, M01, M20, M21, M22] rfl rfl
    (collectScores_cons v202211000 (collectScores_cons v022211000 (collectScores_cons v002211200 (collectScores_cons v002211020 (collectScores_cons v002211002 collectScores_nil))))) rfl

theorem t002212112 : readBoardAux P2 4 (⟨N0, N0, N2, N2, N1, N2, N1, N1, N2⟩ : Grid) P1 = some (ZP, none) :=
  rfl

theorem v002212110 : readBoardAux P2 5 (⟨N0, N0, N2, N2, N1, N2, N1, N1, N0⟩ : Grid) P2 = some (ZP, some M22) :=
  readBoardAux_step P2 4 (⟨N0, N0, N2, N2, N1, N2, N1, N1, N0⟩ : Grid) P2 [M00, M01, M22] rfl rfl
    (collectScores_cons v202212110 (collectScores_cons v022212110 (collectScores_cons t002212112 collectScores_nil))) rfl

theorem v002212121 : readBoardAux P2 4 (⟨N0, N0, N2, N2, N1, N2, N1, N2, N1⟩ : Grid) P1 = some (ZM, some M00) :=
  readBoardAux_step P2 3 (⟨N0, N0, N2, N2, N1, N2, N1, N2, N1⟩ : Grid) P1 [M00, M01] rfl rfl
    (collectScores_cons t102212121 (collectScores_cons v012212121 collectScores_nil)) rfl

theorem v002212101 : readBoardAux P2 5 (⟨N0, N0, N2, N2, N1, N2, N1, N0, N1⟩ : Grid) P2 = some (ZM, some M00) :=
  readBoardAux_step P2 4 (⟨N0, N0, N2, N2, N1, N2, N1, N0, N1⟩ : Grid) P2 [M00, M01, M21] rfl rfl
    (collectScores_cons v202212101 (collectScores_cons v022212101 (collectScores_cons v002212121 collectScores_nil))) rfl

theorem v002212100 : readBoardAux P2 6 (⟨N0, N0, N2, N2, N1, N2, N1, N0, N0⟩ : Grid) P1 = some (ZM, some M22) :=
  readBoardAux_step P2 5 (⟨N0, N0, N2, N2, N1, N2, N1, N0, N0⟩ : Grid) P1 [M00, M01, M21, M22] rfl rfl
    (collectScores_cons v102212100 (collectScores_cons v012212100 (collectScores_cons v002212110 (collectScores_cons v002212101 collectScores_nil)))) rfl

theorem v002210121 : readBoardAux P2 5 (⟨N0, N0, N2, N2, N1, N0, N1, N2, N1⟩ : Grid) P2 = some (Z0, some M00) :=
  readBoardAux_step P2 4 (⟨N0, N0, N2, N2, N1, N0, N1, N2, N1⟩ : Grid) P2 [M00, M01, M12] rfl rfl
    (collectScores_cons v202210121 (collectScores_cons v022210121 (collectScores_cons v002212121 collectScores_nil))) rfl

theorem v002210120 : readBoardAux P2 6 (⟨N0, N0, N2, N2, N1, N0, N1, N2, N0⟩ : Grid) P1 = some (Z0, some M00) :=
  readBoardAux_step P2 5 (⟨N0, N0, N2, N2, N1, N0, N1, N2, N0⟩ : Grid) P1 [M00, M01, M12, M22] rfl rfl
    (collectScores_cons v102210120 (collectScores_cons v012210120 (collectScores_cons v002211120 (collectScores_cons v002210121 collectScores_nil)))) rfl

theorem v002210112 : readBoardAux P2 5 (⟨N0, N0, N2, N2, N1, N0, N1, N1, N2⟩ : Grid) P2 = some (ZP, some M01) :=
  readBoardAux_step P2 4 (⟨N0, N0, N2, N2, N1, N0, N1, N1, N2⟩ : Grid) P2 [M00, M01, M12] rfl rfl
    (collectScores_cons v202210112 (collectScores_cons v022210112 (collectScores_cons t002212112 collectScores_nil))) rfl

theorem v002210102 : readBoardAux P2 6 (⟨N0, N0, N2, N2, N1, N0, N1, N0, N2⟩ : Grid) P1 = some (Z0, some M12) :=
  readBoardAux_step P2 5 (⟨N0, N0, N2, N2, N1, N0, N1, N0, N2⟩ : Grid) P1 [M00, M01, M12, M21] rfl rfl
    (collectScores_cons v102210102 (collectScores_cons v012210102 (collectScores_cons v002211102 (collectScores_cons v002210112 collectScores_nil)))) rfl

theorem v002210100 : readBoardAux P2 7 (⟨N0, N0, N2, N2, N1, N0, N1, N0, N0⟩ : Grid) P2 = some (Z0, some M00) :=
  readBoardAux_step P2 6 (⟨N0, N0, N2, N2, N1, N0, N1, N0, N0⟩ : Grid) P2 [M00, M01, M12, M21, M22] rfl rfl
    (collectScores_cons v202210100 (collectScores_cons v022210100 (collectScores_cons v002212100 (collectScores_cons v002210120 (collectScores_cons v002210102 collectScores_nil))))) rfl

theorem v002212211 : readBoardAux P2 4 (⟨N0, N0, N2, N2, N1, N2, N2, N1, N1⟩ : Grid) P1 = some (ZM, some M00) :=
  readBoardAux_step P2 3 (⟨N0, N0, N2, N2, N1, N2, N2, N1, N1⟩ : Grid) P1 [M00, M01] rfl rfl
    (collectScores_cons t102212211 (collectScores_cons t012212211 collectScores_nil)) rfl

theorem v002212011 : readBoardAux P2 5 (⟨N0, N0, N2, N2, N1, N2, N0, N1, N1⟩ : Grid) P2 = some (ZM, some M00) :=
  readBoardAux_step P2 4 (⟨N0, N0, N2, N2, N1, N2, N0, N1, N1⟩ : Grid) P2 [M00, M01, M20] rfl rfl
    (collectScores_cons v202212011 (collectScores_cons v022212011 (collectScores_cons v002212211 collectScores_nil))) rfl

theorem v002212010 : readBoardAux P2 6 (⟨N0, N0, N2, N2, N1, N2, N0, N1, N0⟩ : Grid) P1 = some (ZM, some M01) :=
  readBoardAux_step P2 5 (⟨N0, N0, N2, N2, N1, N2, N0, N1, N0⟩ : Grid) P1 [M00, M01, M20, M22] rfl rfl
    (collectScores_cons v102212010 (collectScores_cons t012212010 (collectScores_cons v002212110 (collectScores_cons v002212011 collectScores_nil)))) rfl

theorem v002210211 : readBoardAux P2 5 (⟨N0, N0, N2, N2, N1, N0, N2, N1, N1⟩ : Grid) P2 = some (ZP, some M00) :=
  readBoardAux_step P2 4 (⟨N0, N0, N2, N2, N1, N0, N2, N1, N1⟩ : Grid) P2 [M00, M01, M12] rfl rfl
    (collectScores_cons t202210211 (collectScores_cons v022210211 (collectScores_cons v002212211 collectScores_nil))) rfl

theorem v002210210 : readBoardAux P2 6 (⟨N0, N0, N2, N2, N1, N0, N2, N1, N0⟩ : Grid) P1 = some (ZM, some M00) :=
  readBoardAux_step P2 5 (⟨N0, N0, N2, N2, N1, N0, N2, N1, N0⟩ : Grid) P1 [M00, M01, M12, M22] rfl rfl
    (collectScores_cons v102210210 (collectScores_cons t012210210 (collectScores_cons v002211210 (collectScores_cons v002210211 collectScores_nil)))) rfl

theorem v002210012 : readBoardAux P2 6 (⟨N0, N0, N2, N2, N1, N0, N0, N1, N2⟩ : Grid) P1 = some (ZM, some M01) :=
  readBoardAux_step P2 5 (⟨N0, N0, N2, N2, N1, N0, N0, N1, N2⟩ : Grid) P1 [M00, M01, M12, M20] rfl rfl
    (collectScores_cons v102210012 (collectScores_cons t012210012 (collectScores_cons v002211012 (collectScores_cons v002210112 collectScores_nil)))) rfl

theorem v002210010 : readBoardAux P2 7 (⟨N0, N0, N2, N2, N1, N0, N0, N1, N0⟩ : Grid) P2 = some (Z0, some M01) :=
  readBoardAux_step P2 6 (⟨N0, N0, N2, N2, N1, N0, N0, N1, N0⟩ : Grid) P2 [M00, M01, M12, M20, M22] rfl rfl
    (collectScores_cons v202210010 (collectScores_cons v022210010 (collectScores_cons v002212010 (collectScores_cons v002210210 (collectScores_cons v002210012 collectScores_nil))))) rfl

theorem v002212001 : readBoardAux P2 6 (⟨N0, N0, N2, N2, N1, N2, N0, N0, N1⟩ : Grid) P1 = some (ZM, some M00) :=
  readBoardAux_step P2 5 (⟨N0, N0, N2, N2, N1, N2, N0, N0, N1⟩ : Grid) P1 [M00, M01, M20, M21] rfl rfl
    (collectScores_cons t102212001 (collectScores_cons v012212001 (collectScores_cons v002212101 (collectScores_cons v002212011 collectScores_nil)))) rfl

theorem v002210201 : readBoardAux P2 6 (⟨N0, N0, N2, N2, N1, N0, N2, N0, N1⟩ : Grid) P1 = some (ZM, some M00) :=
  readBoardAux_step P2 5 (⟨N0, N0, N2, N2, N1, N0, N2, N0, N1⟩ : Grid) P1 [M00, M01, M12, M21] rfl rfl
    (collectScores_cons t102210201 (collectScores_cons v012210201 (collectScores_cons v002211201 (collectScores_cons v002210211 collectScores_nil)))) rfl

theorem v002210021 : readBoardAux P2 6 (⟨N0, N0, N2, N2, N1, N0, N0, N2, N1⟩ : Grid) P1 = some (ZM, some M00) :=
  readBoardAux_step P2 5 (⟨N0, N0, N2, N2, N1, N0, N0, N2, N1⟩ : Grid) P1 [M00, M01, M12, M20] rfl rfl
    (collectScores_cons t102210021 (collectScores_cons v012210021 (collectScores_cons v002211021 (collectScores_cons v002210121 collectScores_nil)))) rfl

theorem v002210001 : readBoardAux P2 7 (⟨N0, N0, N2, N2, N1, N0, N0, N0, N1⟩ : Grid) P2 = some (ZP, some M00) :=
  readBoardAux_step P2 6 (⟨N0, N0, N2, N2, N1, N0, N0, N0, N1⟩ : Grid) P2 [M00, M01, M12, M20, M21] rfl rfl
    (collectScores_cons v202210001 (collectScores_cons v022210001 (collectScores_cons v002212001 (collectScores_cons v002210201 (collectScores_cons v002210021 collectScores_nil))))) rfl

theorem v002210000 : readBoardAux P2 8 (⟨N0, N0, N2, N2, N1, N0, N0, N0, N0⟩ : Grid) P1 = some (Z0, some M00) :=
  readBoardAux_step P2 7 (⟨N0, N0, N2, N2, N1, N0, N0, N0, N0⟩ : Grid) P1 [M00, M01, M12, M20, M21, M22] rfl rfl
    (collectScores_cons v102210000 (collectScores_cons v012210000 (collectScores_cons v002211000 (collectScores_cons v002210100 (collectScores_cons v002210010 (collectScores_cons v002210001 collectScores_nil)))))) rfl

theorem v002012121 : readBoardAux P2 5 (⟨N0, N0, N2, N0, N1, N2, N1, N2, N1⟩ : Grid) P2 = some (Z0, some M00) :=
  readBoardAux_step P2 4 (⟨N0, N0, N2, N0, N1, N2, N1, N2, N1⟩ : Grid) P2 [M00, M01, M10] rfl rfl
    (collectScores_cons v202012121 (collectScores_cons v022012121 (collectScores_cons v002212121 collectScores_nil))) rfl

theorem v002012120 : readBoardAux P2 6 (⟨N0, N0, N2, N0, N1, N2, N1, N2, N0⟩ : Grid) P1 = some (Z0, some M22) :=
  readBoardAux_step P2 5 (⟨N0, N0, N2, N0, N1, N2, N1, N2, N0⟩ : Grid) P1 [M00, M01, M10, M22] rfl rfl
    (collectScores_cons v102012120 (collectScores_cons v012012120 (collectScores_cons v002112120 (collectScores_cons v002012121 collectScores_nil)))) rfl

theorem t002012102 : readBoardAux P2 6 (⟨N0, N0, N2, N0, N1, N2, N1, N0, N2⟩ : Grid) P1 = some (ZP, none) :=
  rfl

theorem v002012100 : readBoardAux P2 7 (⟨N0, N0, N2, N0, N1, N2, N1, N0, N0⟩ : Grid) P2 = some (ZP, some M00) :=
  readBoardAux_step P2 6 (⟨N0, N0, N2, N0, N1, N2, N1, N0, N0⟩ : Grid) P2 [M00, M01, M10, M21, M22] rfl rfl
    (collectScores_cons v202012100 (collectScores_cons v022012100 (collectScores_cons v002212100 (collectScores_cons v002012120 (collectScores_cons t002012102 collectScores_nil))))) rfl

theorem v002012211 : readBoardAux P2 5 (⟨N0, N0, N2, N0, N1, N2, N2, N1, N1⟩ : Grid) P2 = some (ZM, some M00) :=
  readBoardAux_step P2 4 (⟨N0, N0, N2, N0, N1, N2, N2, N1, N1⟩ : Grid) P2 [M00, M01, M10] rfl rfl
    (collectScores_cons v202012211 (collectScores_cons v022012211 (collectScores_cons v002212211 collectScores_nil))) rfl

theorem v002012210 : readBoardAux P2 6 (⟨N0, N0, N2, N0, N1, N2, N2, N1, N0⟩ : Grid) P1 = some (ZM, some M01) :=
  readBoardAux_step P2 5 (⟨N0, N0, N2, N0, N1, N2, N2, N1, N0⟩ : Grid) P1 [M00, M01, M10, M22] rfl rfl
    (collectScores_cons v102012210 (collectScores_cons t012012210 (collectScores_cons v002112210 (collectScores_cons v002012211 collectScores_nil)))) rfl

theorem t002012012 : readBoardAux P2 6 (⟨N0, N0, N2, N0, N1, N2, N0, N1, N2⟩ : Grid) P1 = some (ZP, none) :=
  rfl

theorem v002012010 : readBoardAux P2 7 (⟨N0, N0, N2, N0, N1, N2, N0, N1, N0⟩ : Grid) P2 = some (ZP, some M01) :=
  readBoardAux_step P2 6 (⟨N0, N0, N2, N0, N1, N2, N0, N1, N0⟩ : Grid) P2 [M00, M01, M10, M20, M22] rfl rfl
    (collectScores_cons v202012010 (collectScores_cons v022012010 (collectScores_cons v002212010 (collectScores_cons v002012210 (collectScores_cons t002012012 collectScores_nil))))) rfl

theorem v002012201 : readBoardAux P2 6 (⟨N0, N0, N2, N0, N1, N2, N2, N0, N1⟩ : Grid) P1 = some (ZM, some M00) :=
  readBoardAux_step P2 5 (⟨N0, N0, N2, N0, N1, N2, N2, N0, N1⟩ : Grid) P1 [M00, M01, M10, M21] rfl rfl
    (collectScores_cons t102012201 (collectScores_cons v012012201 (collectScores_cons v002112201 (collectScores_cons v002012211 collectScores_nil)))) rfl

theorem v002012021 : readBoardAux P2 6 (⟨N0, N0, N2, N0, N1, N2, N0, N2, N1⟩ : Grid) P1 = some (ZM, some M00) :=
  readBoardAux_step P2 5 (⟨N0, N0, N2, N0, N1, N2, N0, N2, N1⟩ : Grid) P1 [M00, M01, M10, M20] rfl rfl
    (collectScores_cons t102012021 (collectScores_cons v012012021 (collectScores_cons v002112021 (collectScores_cons v002012121 collectScores_nil)))) rfl

theorem v002012001 : readBoardAux P2 7 (⟨N0, N0, N2, N0, N1, N2, N0, N0, N1⟩ : Grid) P2 = some (Z0, some M00) :=
  readBoardAux_step P2 6 (⟨N0, N0, N2, N0, N1, N2, N0, N0, N1⟩ : Grid) P2 [M00, M01, M10, M20, M21] rfl rfl
    (collectScores_cons v202012001 (collectScores_cons v022012001 (collectScores_cons v002212001 (collectScores_cons v002012201 (collectScores_cons v002012021 collectScores_nil))))) rfl

theorem v002012000 : readBoardAux P2 8 (⟨N0, N0, N2, N0, N1, N2, N0, N0, N0⟩ : Grid) P1 = some (Z0, some M22) :=
  readBoardAux_step P2 7 (⟨N0, N0, N2, N0, N1, N2, N0, N0, N0⟩ : Grid) P1 [M00, M01, M10, M20, M21, M22] rfl rfl
    (collectScores_cons v102012000 (collectScores_cons v012012000 (collectScores_cons v002112000 (collectScores_cons v002012100 (collectScores_cons v002012010 (collectScores_cons v002012001 collectScores_nil)))))) rfl

theorem v002011221 : readBoardAux P2 5 (⟨N0, N0, N2, N0, N1, N1, N2, N2, N1⟩ : Grid) P2 = some (ZM, some M00) :=
  readBoardAux_step P2 4 (⟨N0, N0, N2, N0, N1, N1, N2, N2, N1⟩ : Grid) P2 [M00, M01, M10] rfl rfl
    (collectScores_cons v202011221 (collectScores_cons v022011221 (collectScores_cons v002211221 collectScores_nil))) rfl

theorem v002011220 : readBoardAux P2 6 (⟨N0, N0, N2, N0, N1, N1, N2, N2, N0⟩ : Grid) P1 = some (ZM, some M10) :=
  readBoardAux_step P2 5 (⟨N0, N0, N2, N0, N1, N1, N2, N2, N0⟩ : Grid) P1 [M00, M01, M10, M22] rfl rfl
    (collectScores_cons v102011220 (collectScores_cons v012011220 (collectScores_cons t002111220 (collectScores_cons v002011221 collectScores_nil)))) rfl

theorem v002011212 : readBoardAux P2 5 (⟨N0, N0, N2, N0, N1, N1, N2, N1, N2⟩ : Grid) P2 = some (ZM, some M00) :=
  readBoardAux_step P2 4 (⟨N0, N0, N2, N0, N1, N1, N2, N1, N2⟩ : Grid) P2 [M00, M01, M10] rfl rfl
    (collectScores_cons v202011212 (collectScores_cons v022011212 (collectScores_cons v002211212 collectScores_nil))) rfl

theorem v002011202 : readBoardAux P2 6 (⟨N0, N0, N2, N0, N1, N1, N2, N0, N2⟩ : Grid) P1 = some (ZM, some M10) :=
  readBoardAux_step P2 5 (⟨N0, N0, N2, N0, N1, N1, N2, N0, N2⟩ : Grid) P1 [M00, M01, M10, M21] rfl rfl
    (collectScores_cons v102011202 (collectScores_cons v012011202 (collectScores_cons t002111202 (collectScores_cons v002011212 collectScores_nil)))) rfl

theorem v002011200 : readBoardAux P2 7 (⟨N0, N0, N2, N0, N1, N1, N2, N0, N0⟩ : Grid) P2 = some (Z0, some M10) :=
  readBoardAux_step P2 6 (⟨N0, N0, N2, N0, N1, N1, N2, N0, N0⟩ : Grid) P2 [M00, M01, M10, M21, M22] rfl rfl
    (collectScores_cons v202011200 (collectScores_cons v022011200 (collectScores_cons v002211200 (collectScores_cons v002011220 (collectScores_cons v002011202 collectScores_nil))))) rfl

theorem v002010212 : readBoardAux P2 6 (⟨N0, N0, N2, N0, N1, N0, N2, N1, N2⟩ : Grid) P1 = some (ZM, some M01) :=
  readBoardAux_step P2 5 (⟨N0, N0, N2, N0, N1, N0, N2, N1, N2⟩ : Grid) P1 [M00, M01, M10, M12] rfl rfl
    (collectScores_cons v102010212 (collectScores_cons t012010212 (collectScores_cons v002110212 (collectScores_cons v002011212 collectScores_nil)))) rfl

theorem v002010210 : readBoardAux P2 7 (⟨N0, N0, N2, N0, N1, N0, N2, N1, N0⟩ : Grid) P2 = some (Z0, some M01) :=
  readBoardAux_step P2 6 (⟨N0, N0, N2, N0, N1, N0, N2, N1, N0⟩ : Grid) P2 [M00, M01, M10, M12, M22] rfl rfl
    (collectScores_cons v202010210 (collectScores_cons v022010210 (collectScores_cons v002210210 (collectScores_cons v002012210 (collectScores_cons v002010212 collectScores_nil))))) rfl

theorem v002010221 : readBoardAux P2 6 (⟨N0, N0, N2, N0, N1, N0, N2, N2, N1⟩ : Grid) P1 = some (ZM, some M00) :=
  readBoardAux_step P2 5 (⟨N0, N0, N2, N0, N1, N0, N2, N2, N1⟩ : Grid) P1 [M00, M01, M10, M12] rfl rfl
    (collectScores_cons t102010221 (collectScores_cons v012010221 (collectScores_cons v002110221 (collectScores_cons v002011221 collectScores_nil)))) rfl

theorem v002010201 : readBoardAux P2 7 (⟨N0, N0, N2, N0, N1, N0, N2, N0, N1⟩ : Grid) P2 = some (ZP, some M00) :=
  readBoardAux_step P2 6 (⟨N0, N0, N2, N0, N1, N0, N2, N0, N1⟩ : Grid) P2 [M00, M01, M10, M12, M21] rfl rfl
    (collectScores_cons v202010201 (collectScores_cons v022010201 (collectScores_cons v002210201 (collectScores_cons v002012201 (collectScores_cons v002010221 collectScores_nil))))) rfl

theorem v002010200 : readBoardAux P2 8 (⟨N0, N0, N2, N0, N1, N0, N2, N0, N0⟩ : Grid) P1 = some (Z0, some M01) :=
  readBoardAux_step P2 7 (⟨N0, N0, N2, N0, N1, N0, N2, N0, N0⟩ : Grid) P1 [M00, M01, M10, M12, M21, M22] rfl rfl
    (collectScores_cons v102010200 (collectScores_cons v012010200 (collectScores_cons v002110200 (collectScores_cons v002011200 (collectScores_cons v002010210 (collectScores_cons v002010201 collectScores_nil)))))) rfl

theorem v002011122 : readBoardAux P2 5 (⟨N0, N0, N2, N0, N1, N1, N1, N2, N2⟩ : Grid) P2 = some (Z0, some M10) :=
  readBoardAux_step P2 4 (⟨N0, N0, N2, N0, N1, N1, N1, N2, N2⟩ : Grid) P2 [M00, M01, M10] rfl rfl
    (collectScores_cons v202011122 (collectScores_cons v022011122 (collectScores_cons v002211122 collectScores_nil))) rfl

theorem v002011022 : readBoardAux P2 6 (⟨N0, N0, N2, N0, N1, N1, N0, N2, N2⟩ : Grid) P1 = some (ZM, some M10) :=
  readBoardAux_step P2 5 (⟨N0, N0, N2, N0, N1, N1, N0, N2, N2⟩ : Grid) P1 [M00, M01, M10, M20] rfl rfl
    (collectScores_cons v102011022 (collectScores_cons v012011022 (collectScores_cons t002111022 (collectScores_cons v002011122 collectScores_nil)))) rfl

theorem v002011020 : readBoardAux P2 7 (⟨N0, N0, N2, N0, N1, N1, N0, N2, N0⟩ : Grid) P2 = some (Z0, some M10) :=
  readBoardAux_step P2 6 (⟨N0, N0, N2, N0, N1, N1, N0, N2, N0⟩ : Grid) P2 [M00, M01, M10, M20, M22] rfl rfl
    (collectScores_cons v202011020 (collectScores_cons v022011020 (collectScores_cons v002211020 (collectScores_cons v002011220 (collectScores_cons v002011022 collectScores_nil))))) rfl

theorem v002010122 : readBoardAux P2 6 (⟨N0, N0, N2, N0, N1, N0, N1, N2, N2⟩ : Grid) P1 = some (Z0, some M12) :=
  readBoardAux_step P2 5 (⟨N0, N0, N2, N0, N1, N0, N1, N2, N2⟩ : Grid) P1 [M00, M01, M10, M12] rfl rfl
    (collectScores_cons v102010122 (collectScores_cons v012010122 (collectScores_cons v002110122 (collectScores_cons v002011122 collectScores_nil)))) rfl

theorem v002010120 : readBoardAux P2 7 (⟨N0, N0, N2, N0, N1, N0, N1, N2, N0⟩ : Grid) P2 = some (Z0, some M00) :=
  readBoardAux_step P2 6 (⟨N0, N0, N2, N0, N1, N0, N1, N2, N0⟩ : Grid) P2 [M00, M01, M10, M12, M22] rfl rfl
    (collectScores_cons v202010120 (collectScores_cons v022010120 (collectScores_cons v002210120 (collectScores_cons v002012120 (collectScores_cons v002010122 collectScores_nil))))) rfl

theorem v002010021 : readBoardAux P2 7 (⟨N0, N0, N2, N0, N1, N0, N0, N2, N1⟩ : Grid) P2 = some (Z0, some M00) :=
  readBoardAux_step P2 6 (⟨N0, N0, N2, N0, N1, N0, N0, N2, N1⟩ : Grid) P2 [M00, M01, M10, M12, M20] rfl rfl
    (collectScores_cons v202010021 (collectScores_cons v022010021 (collectScores_cons v002210021 (collectScores_cons v002012021 (collectScores_cons v002010221 collectScores_nil))))) rfl

theorem v002010020 : readBoardAux P2 8 (⟨N0, N0, N2, N0, N1, N0, N0, N2, N0⟩ : Grid) P1 = some (Z0, some M10) :=
  readBoardAux_step P2 7 (⟨N0, N0, N2, N0, N1, N0, N0, N2, N0⟩ : Grid) P1 [M00, M01, M10, M12, M20, M22] rfl rfl
    (collectScores_cons v102010020 (collectScores_cons v012010020 (collectScores_cons v002110020 (collectScores_cons v002011020 (collectScores_cons v002010120 (collectScores_cons v002010021 collectScores_nil)))))) rfl

theorem v002011002 : readBoardAux P2 7 (⟨N0, N0, N2, N0, N1, N1, N0, N0, N2⟩ : Grid) P2 = some (Z0, some M10) :=
  readBoardAux_step P2 6 (⟨N0, N0, N2, N0, N1, N1, N0, N0, N2⟩ : Grid) P2 [M00, M01, M10, M20, M21] rfl rfl
    (collectScores_cons v202011002 (collectScores_cons v022011002 (collectScores_cons v002211002 (collectScores_cons v002011202 (collectScores_cons v002011022 collectScores_nil))))) rfl

theorem v002010102 : readBoardAux P2 7 (⟨N0, N0, N2, N0, N1, N0, N1, N0, N2⟩ : Grid) P2 = some (ZP, some M00) :=
  readBoardAux_step P2 6 (⟨N0, N0, N2, N0, N1, N0, N1, N0, N2⟩ : Grid) P2 [M00, M01, M10, M12, M21] rfl rfl
    (collectScores_cons v202010102 (collectScores_cons v022010102 (collectScores_cons v002210102 (collectScores_cons t002012102 (collectScores_cons v002010122 collectScores_nil))))) rfl

theorem v002010012 : readBoardAux P2 7 (⟨N0, N0, N2, N0, N1, N0, N0, N1, N2⟩ : Grid) P2 = some (ZP, some M01) :=
  readBoardAux_step P2 6 (⟨N0, N0, N2, N0, N1, N0, N0, N1, N2⟩ : Grid) P2 [M00, M01, M10, M12, M20] rfl rfl
    (collectScores_cons v202010012 (collectScores_cons v022010012 (collectScores_cons v002210012 (collectScores_cons t002012012 (collectScores_cons v002010212 collectScores_nil))))) rfl

theorem v002010002 : readBoardAux P2 8 (⟨N0, N0, N2, N0, N1, N0, N0, N0, N2⟩ : Grid) P1 = some (Z0, some M12) :=
  readBoardAux_step P2 7 (⟨N0, N0, N2, N0, N1, N0, N0, N0, N2⟩ : Grid) P1 [M00, M01, M10, M12, M20, M21] rfl rfl
    (collectScores_cons v102010002 (collectScores_cons v012010002 (collectScores_cons v002110002 (collectScores_cons v002011002 (collectScores_cons v002010102 (collectScores_cons v002010012 collectScores_nil)))))) rfl

theorem v002010000 : readBoardAux P2 9 (⟨N0, N0, N2, N0, N1, N0, N0, N0, N0⟩ : Grid) P2 = some (Z0, some M00) :=
  readBoardAux_step P2 8 (⟨N0, N0, N2, N0, N1, N0, N0, N0, N0⟩ : Grid) P2 [M00, M01, M10, M12, M20, M21, M22] rfl rfl
    (collectScores_cons v202010000 (collectScores_cons v022010000 (collectScores_cons v002210000 (collectScores_cons v002012000 (collectScores_cons v002010200 (collectScores_cons v002010020 (collectScores_cons v002010002 collectScores_nil))))))) rfl

theorem v002221112 : readBoardAux P2 4 (⟨N0, N0, N2, N2, N2, N1, N1, N1, N2⟩ : Grid) P1 = some (Z0, some M00) :=
  readBoardAux_step P2 3 (⟨N0, N0, N2, N2, N2, N1, N1, N1, N2⟩ : Grid) P1 [M00, M01] rfl rfl
    (collectScores_cons v102221112 (collectScores_cons v012221112 collectScores_nil)) rfl

theorem v002221110 : readBoardAux P2 5 (⟨N0, N0, N2, N2, N2, N1, N1, N1, N0⟩ : Grid) P2 = some (Z0, some M22) :=
  readBoardAux_step P2 4 (⟨N0, N0, N2, N2, N2, N1, N1, N1, N0⟩ : Grid) P2 [M00, M01, M22] rfl rfl
    (collectScores_cons v202221110 (collectScores_cons v022221110 (collectScores_cons v002221112 collectScores_nil))) rfl

theorem v002221121 : readBoardAux P2 4 (⟨N0, N0, N2, N2, N2, N1, N1, N2, N1⟩ : Grid) P1 = some (Z0, some M01) :=
  readBoardAux_step P2 3 (⟨N0, N0, N2, N2, N2, N1, N1, N2, N1⟩ : Grid) P1 [M00, M01] rfl rfl
    (collectScores_cons v102221121 (collectScores_cons v012221121 collectScores_nil)) rfl

theorem v002221101 : readBoardAux P2 5 (⟨N0, N0, N2, N2, N2, N1, N1, N0, N1⟩ : Grid) P2 = some (Z0, some M21) :=
  readBoardAux_step P2 4 (⟨N0, N0, N2, N2, N2, N1, N1, N0, N1⟩ : Grid) P2 [M00, M01, M21] rfl rfl
    (collectScores_cons v202221101 (collectScores_cons v022221101 (collectScores_cons v002221121 collectScores_nil))) rfl

theorem v002221100 : readBoardAux P2 6 (⟨N0, N0, N2, N2, N2, N1, N1, N0, N0⟩ : Grid) P1 = some (Z0, some M00) :=
  readBoardAux_step P2 5 (⟨N0, N0, N2, N2, N2, N1, N1, N0, N0⟩ : Grid) P1 [M00, M01, M21, M22] rfl rfl
    (collectScores_cons v102221100 (collectScores_cons v012221100 (collectScores_cons v002221110 (collectScores_cons v002221101 collectScores_nil)))) rfl

theorem v002201121 : readBoardAux P2 5 (⟨N0, N0, N2, N2, N0, N1, N1, N2, N1⟩ : Grid) P2 = some (ZP, some M01) :=
  readBoardAux_step P2 4 (⟨N0, N0, N2, N2, N0, N1, N1, N2, N1⟩ : Grid) P2 [M00, M01, M11] rfl rfl
    (collectScores_cons v202201121 (collectScores_cons v022201121 (collectScores_cons v002221121 collectScores_nil))) rfl

theorem v002201120 : readBoardAux P2 6 (⟨N0, N0, N2, N2, N0, N1, N1, N2, N0⟩ : Grid) P1 = some (Z0, some M00) :=
  readBoardAux_step P2 5 (⟨N0, N0, N2, N2, N0, N1, N1, N2, N0⟩ : Grid) P1 [M00, M01, M11, M22] rfl rfl
    (collectScores_cons v102201120 (collectScores_cons v012201120 (collectScores_cons v002211120 (collectScores_cons v002201121 collectScores_nil)))) rfl

theorem v002201112 : readBoardAux P2 5 (⟨N0, N0, N2, N2, N0, N1, N1, N1, N2⟩ : Grid) P2 = some (ZP, some M00) :=
  readBoardAux_step P2 4 (⟨N0, N0, N2, N2, N0, N1, N1, N1, N2⟩ : Grid) P2 [M00, M01, M11] rfl rfl
    (collectScores_cons v202201112 (collectScores_cons v022201112 (collectScores_cons v002221112 collectScores_nil))) rfl

theorem v002201102 : readBoardAux P2 6 (⟨N0, N0, N2, N2, N0, N1, N1, N0, N2⟩ : Grid) P1 = some (Z0, some M00) :=
  readBoardAux_step P2 5 (⟨N0, N0, N2, N2, N0, N1, N1, N0, N2⟩ : Grid) P1 [M00, M01, M11, M21] rfl rfl
    (collectScores_cons v102201102 (collectScores_cons v012201102 (collectScores_cons v002211102 (collectScores_cons v002201112 collectScores_nil)))) rfl

theorem v002201100 : readBoardAux P2 7 (⟨N0, N0, N2, N2, N0, N1, N1, N0, N0⟩ : Grid) P2 = some (Z0, some M00) :=
  readBoardAux_step P2 6 (⟨N0, N0, N2, N2, N0, N1, N1, N0, N0⟩ : Grid) P2 [M00, M01, M11, M21, M22] rfl rfl
    (collectScores_cons v202201100 (collectScores_cons v022201100 (collectScores_cons v002221100 (collectScores_cons v002201120 (collectScores_cons v002201102 collectScores_nil))))) rfl

theorem t002221211 : readBoardAux P2 4 (⟨N0, N0, N2, N2, N2, N1, N2, N1, N1⟩ : Grid) P1 = some (ZP, none) :=
  rfl

theorem v002221011 : readBoardAux P2 5 (⟨N0, N0, N2, N2, N2, N1, N0, N1, N1⟩ : Grid) P2 = some (ZP, some M20) :=
  readBoardAux_step P2 4 (⟨N0, N0, N2, N2, N2, N1, N0, N1, N1⟩ : Grid) P2 [M00, M01, M20] rfl rfl
    (collectScores_cons v202221011 (collectScores_cons v022221011 (collectScores_cons t002221211 collectScores_nil))) rfl

theorem v002221010 : readBoardAux P2 6 (⟨N0, N0, N2, N2, N2, N1, N0, N1, N0⟩ : Grid) P1 = some (Z0, some M20) :=
  readBoardAux_step P2 5 (⟨N0, N0, N2, N2, N2, N1, N0, N1, N0⟩ : Grid) P1 [M00, M01, M20, M22] rfl rfl
    (collectScores_cons v102221010 (collectScores_cons v012221010 (collectScores_cons v002221110 (collectScores_cons v002221011 collectScores_nil)))) rfl

theorem v002201211 : readBoardAux P2 5 (⟨N0, N0, N2, N2, N0, N1, N2, N1, N1⟩ : Grid) P2 = some (ZP, some M00) :=
  readBoardAux_step P2 4 (⟨N0, N0, N2, N2, N0, N1, N2, N1, N1⟩ : Grid) P2 [M00, M01, M11] rfl rfl
    (collectScores_cons t202201211 (collectScores_cons v022201211 (collectScores_cons t002221211 collectScores_nil))) rfl

theorem v002201210 : readBoardAux P2 6 (⟨N0, N0, N2, N2, N0, N1, N2, N1, N0⟩ : Grid) P1 = some (ZP, some M00) :=
  readBoardAux_step P2 5 (⟨N0, N0, N2, N2, N0, N1, N2, N1, N0⟩ : Grid) P1 [M00, M01, M11, M22] rfl rfl
    (collectScores_cons v102201210 (collectScores_cons v012201210 (collectScores_cons v002211210 (collectScores_cons v002201211 collectScores_nil)))) rfl

theorem v002201012 : readBoardAux P2 6 (⟨N0, N0, N2, N2, N0, N1, N0, N1, N2⟩ : Grid) P1 = some (Z0, some M00) :=
  readBoardAux_step P2 5 (⟨N0, N0, N2, N2, N0, N1, N0, N1, N2⟩ : Grid) P1 [M00, M01, M11, M20] rfl rfl
    (collectScores_cons v102201012 (collectScores_cons v012201012 (collectScores_cons v002211012 (collectScores_cons v002201112 collectScores_nil)))) rfl

theorem v002201010 : readBoardAux P2 7 (⟨N0, N0, N2, N2, N0, N1, N0, N1, N0⟩ : Grid) P2 = some (ZP, some M00) :=
  readBoardAux_step P2 6 (⟨N0, N0, N2, N2, N0, N1, N0, N1, N0⟩ : Grid) P2 [M00, M01, M11, M20, M22] rfl rfl
    (collectScores_cons v202201010 (collectScores_cons v022201010 (collectScores_cons v002221010 (collectScores_cons v002201210 (collectScores_cons v002201012 collectScores_nil))))) rfl

theorem v002221001 : readBoardAux P2 6 (⟨N0, N0, N2, N2, N2, N1, N0, N0, N1⟩ : Grid) P1 = some (Z0, some M20) :=
  readBoardAux_step P2 5 (⟨N0, N0, N2, N2, N2, N1, N0, N0, N1⟩ : Grid) P1 [M00, M01, M20, M21] rfl rfl
    (collectScores_cons v102221001 (collectScores_cons v012221001 (collectScores_cons v002221101 (collectScores_cons v002221011 collectScores_nil)))) rfl

theorem v002201201 : readBoardAux P2 6 (⟨N0, N0, N2, N2, N0, N1, N2, N0, N1⟩ : Grid) P1 = some (ZP, some M00) :=
  readBoardAux_step P2 5 (⟨N0, N0, N2, N2, N0, N1, N2, N0, N1⟩ : Grid) P1 [M00, M01, M11, M21] rfl rfl
    (collectScores_cons v102201201 (collectScores_cons v012201201 (collectScores_cons v002211201 (collectScores_cons v002201211 collectScores_nil)))) rfl

theorem v002201021 : readBoardAux P2 6 (⟨N0, N0, N2, N2, N0, N1, N0, N2, N1⟩ : Grid) P1 = some (ZP, some M00) :=
  readBoardAux_step P2 5 (⟨N0, N0, N2, N2, N0, N1, N0, N2, N1⟩ : Grid) P1 [M00, M01, M11, M20] rfl rfl
    (collectScores_cons v102201021 (collectScores_cons v012201021 (collectScores_cons v002211021 (collectScores_cons v002201121 collectScores_nil)))) rfl

theorem v002201001 : readBoardAux P2 7 (⟨N0, N0, N2, N2, N0, N1, N0, N0, N1⟩ : Grid) P2 = some (ZP, some M00) :=
  readBoardAux_step P2 6 (⟨N0, N0, N2, N2, N0, N1, N0, N0, N1⟩ : Grid) P2 [M00, M01, M11, M20, M21] rfl rfl
    (collectScores_cons v202201001 (collectScores_cons v022201001 (collectScores_cons v002221001 (collectScores_cons v002201201 (collectScores_cons v002201021 collectScores_nil))))) rfl

theorem v002201000 : readBoardAux P2 8 (⟨N0, N0, N2, N2, N0, N1, N0, N0, N0⟩ : Grid) P1 = some (Z0, some M00) :=
  readBoardAux_step P2 7 (⟨N0, N0, N2, N2, N0, N1, N0, N0, N0⟩ : Grid) P1 [M00, M01, M11, M20, M21, M22] rfl rfl
    (collectScores_cons v102201000 (collectScores_cons v012201000 (collectScores_cons v002211000 (collectScores_cons v002201100 (collectScores_cons v002201010 (collectScores_cons v002201001 collectScores_nil)))))) rfl

theorem v002021121 : readBoardAux P2 5 (⟨N0, N0, N2, N0, N2, N1, N1, N2, N1⟩ : Grid) P2 = some (ZP, some M01) :=
  readBoardAux_step P2 4 (⟨N0, N0, N2, N0, N2, N1, N1, N2, N1⟩ : Grid) P2 [M00, M01, M10] rfl rfl
    (collectScores_cons v202021121 (collectScores_cons t022021121 (collectScores_cons v002221121 collectScores_nil))) rfl

theorem v002021120 : readBoardAux P2 6 (⟨N0, N0, N2, N0, N2, N1, N1, N2, N0⟩ : Grid) P1 = some (Z0, some M01) :=
  readBoardAux_step P2 5 (⟨N0, N0, N2, N0, N2, N1, N1, N2, N0⟩ : Grid) P1 [M00, M01, M10, M22] rfl rfl
    (collectScores_cons v102021120 (collectScores_cons v012021120 (collectScores_cons v002121120 (collectScores_cons v002021121 collectScores_nil)))) rfl

theorem v002021112 : readBoardAux P2 5 (⟨N0, N0, N2, N0, N2, N1, N1, N1, N2⟩ : Grid) P2 = some (ZP, some M00) :=
  readBoardAux_step P2 4 (⟨N0, N0, N2, N0, N2, N1, N1, N1, N2⟩ : Grid) P2 [M00, M01, M10] rfl rfl
    (collectScores_cons t202021112 (collectScores_cons v022021112 (collectScores_cons v002221112 collectScores_nil))) rfl

theorem v002021102 : readBoardAux P2 6 (⟨N0, N0, N2, N0, N2, N1, N1, N0, N2⟩ : Grid) P1 = some (Z0, some M00) :=
  readBoardAux_step P2 5 (⟨N0, N0, N2, N0, N2, N1, N1, N0, N2⟩ : Grid) P1 [M00, M01, M10, M21] rfl rfl
    (collectScores_cons v102021102 (collectScores_cons v012021102 (collectScores_cons v002121102 (collectScores_cons v002021112 collectScores_nil)))) rfl

theorem v002021100 : readBoardAux P2 7 (⟨N0, N0, N2, N0, N2, N1, N1, N0, N0⟩ : Grid) P2 = some (ZP, some M00) :=
  readBoardAux_step P2 6 (⟨N0, N0, N2, N0, N2, N1, N1, N0, N0⟩ : Grid) P2 [M00, M01, M10, M21, M22] rfl rfl
    (collectScores_cons v202021100 (collectScores_cons v022021100 (collectScores_cons v002221100 (collectScores_cons v002021120 (collectScores_cons v002021102 collectScores_nil))))) rfl

theorem t002021210 : readBoardAux P2 6 (⟨N0, N0, N2, N0, N2, N1, N2, N1, N0⟩ : Grid) P1 = some (ZP, none) :=
  rfl

theorem v002021012 : readBoardAux P2 6 (⟨N0, N0, N2, N0, N2, N1, N0, N1, N2⟩ : Grid) P1 = some (ZP, some M00) :=
  readBoardAux_step P2 5 (⟨N0, N0, N2, N0, N2, N1, N0, N1, N2⟩ : Grid) P1 [M00, M01, M10, M20] rfl rfl
    (collectScores_cons v102021012 (collectScores_cons v012021012 (collectScores_cons v002121012 (collectScores_cons v002021112 collectScores_nil)))) rfl

theorem v002021010 : readBoardAux P2 7 (⟨N0, N0, N2, N0, N2, N1, N0, N1, N0⟩ : Grid) P2 = some (ZP, some M00) :=
  readBoardAux_step P2 6 (⟨N0, N0, N2, N0, N2, N1, N0, N1, N0⟩ : Grid) P2 [M00, M01, M10, M20, M22] rfl rfl
    (collectScores_cons v202021010 (collectScores_cons v022021010 (collectScores_cons v002221010 (collectScores_cons t002021210 (collectScores_cons v002021012 collectScores_nil))))) rfl

theorem t002021201 : readBoardAux P2 6 (⟨N0, N0, N2, N0, N2, N1, N2, N0, N1⟩ : Grid) P1 = some (ZP, none) :=
  rfl

theorem v002021021 : readBoardAux P2 6 (⟨N0, N0, N2, N0, N2, N1, N0, N2, N1⟩ : Grid) P1 = some (ZP, some M00) :=
  readBoardAux_step P2 5 (⟨N0, N0, N2, N0, N2, N1, N0, N2, N1⟩ : Grid) P1 [M00, M01, M10, M20] rfl rfl
    (collectScores_cons v102021021 (collectScores_cons v012021021 (collectScores_cons v002121021 (collectScores_cons v002021121 collectScores_nil)))) rfl

theorem v002021001 : readBoardAux P2 7 (⟨N0, N0, N2, N0, N2, N1, N0, N0, N1⟩ : Grid) P2 = some (ZP, some M00) :=
  readBoardAux_step P2 6 (⟨N0, N0, N2, N0, N2, N1, N0, N0, N1⟩ : Grid) P2 [M00, M01, M10, M20, M21] rfl rfl
    (collectScores_cons v202021001 (collectScores_cons v022021001 (collectScores_cons v002221001 (collectScores_cons t002021201 (collectScores_cons v002021021 collectScores_nil))))) rfl

theorem v002021000 : readBoardAux P2 8 (⟨N0, N0, N2, N0, N2, N1, N0, N0, N0⟩ : Grid) P1 = some (ZP, some M00) :=
  readBoardAux_step P2 7 (⟨N0, N0, N2, N0, N2, N1, N0, N0, N0⟩ : Grid) P1 [M00, M01, M10, M20, M21, M22] rfl rfl
    (collectScores_cons v102021000 (collectScores_cons v012021000 (collectScores_cons v002121000 (collectScores_cons v002021100 (collectScores_cons v002021010 (collectScores_cons v002021001 collectScores_nil)))))) rfl

theorem v002001212 : readBoardAux P2 6 (⟨N0, N0, N2, N0, N0, N1, N2, N1, N2⟩ : Grid) P1 = some (ZM, some M11) :=
  readBoardAux_step P2 5 (⟨N0, N0, N2, N0, N0, N1, N2, N1, N2⟩ : Grid) P1 [M00, M01, M10, M11] rfl rfl
    (collectScores_cons v102001212 (collectScores_cons v012001212 (collectScores_cons v002101212 (collectScores_cons v002011212 collectScores_nil)))) rfl

theorem v002001210 : readBoardAux P2 7 (⟨N0, N0, N2, N0, N0, N1, N2, N1, N0⟩ : Grid) P2 = some (ZP, some M00) :=
  readBoardAux_step P2 6 (⟨N0, N0, N2, N0, N0, N1, N2, N1, N0⟩ : Grid) P2 [M00, M01, M10, M11, M22] rfl rfl
    (collectScores_cons v202001210 (collectScores_cons v022001210 (collectScores_cons v002201210 (collectScores_cons t002021210 (collectScores_cons v002001212 collectScores_nil))))) rfl

theorem v002001221 : readBoardAux P2 6 (⟨N0, N0, N2, N0, N0, N1, N2, N2, N1⟩ : Grid) P1 = some (ZM, some M11) :=
  readBoardAux_step P2 5 (⟨N0, N0, N2, N0, N0, N1, N2, N2, N1⟩ : Grid) P1 [M00, M01, M10, M11] rfl rfl
    (collectScores_cons v102001221 (collectScores_cons v012001221 (collectScores_cons v002101221 (collectScores_cons v002011221 collectScores_nil)))) rfl

theorem v002001201 : readBoardAux P2 7 (⟨N0, N0, N2, N0, N0, N1, N2, N0, N1⟩ : Grid) P2 = some (ZP, some M00) :=
  readBoardAux_step P2 6 (⟨N0, N0, N2, N0, N0, N1, N2, N0, N1⟩ : Grid) P2 [M00, M01, M10, M11, M21] rfl rfl
    (collectScores_cons v202001201 (collectScores_cons v022001201 (collectScores_cons v002201201 (collectScores_cons t002021201 (collectScores_cons v002001221 collectScores_nil))))) rfl

theorem v002001200 : readBoardAux P2 8 (⟨N0, N0, N2, N0, N0, N1, N2, N0, N0⟩ : Grid) P1 = some (Z0, some M11) :=
  readBoardAux_step P2 7 (⟨N0, N0, N2, N0, N0, N1, N2, N0, N0⟩ : Grid) P1 [M00, M01, M10, M11, M21, M22] rfl rfl
    (collectScores_cons v102001200 (collectScores_cons v012001200 (collectScores_cons v002101200 (collectScores_cons v002011200 (collectScores_cons v002001210 (collectScores_cons v002001201 collectScores_nil)))))) rfl

theorem v002001122 : readBoardAux P2 6 (⟨N0, N0, N2, N0, N0, N1, N1, N2, N2⟩ : Grid) P1 = some (ZM, some M10) :=
  readBoardAux_step P2 5 (⟨N0, N0, N2, N0, N0, N1, N1, N2, N2⟩ : Grid) P1 [M00, M01, M10, M11] rfl rfl
    (collectScores_cons v102001122 (collectScores_cons v012001122 (collectScores_cons v002101122 (collectScores_cons v002011122 collectScores_nil)))) rfl

theorem v002001120 : readBoardAux P2 7 (⟨N0, N0, N2, N0, N0, N1, N1, N2, N0⟩ : Grid) P2 = some (ZP, some M01) :=
  readBoardAux_step P2 6 (⟨N0, N0, N2, N0, N0, N1, N1, N2, N0⟩ : Grid) P2 [M00, M01, M10, M11, M22] rfl rfl
    (collectScores_cons v202001120 (collectScores_cons v022001120 (collectScores_cons v002201120 (collectScores_cons v002021120 (collectScores_cons v002001122 collectScores_nil))))) rfl

theorem v002001021 : readBoardAux P2 7 (⟨N0, N0, N2, N0, N0, N1, N0, N2, N1⟩ : Grid) P2 = some (ZP, some M00) :=
  readBoardAux_step P2 6 (⟨N0, N0, N2, N0, N0, N1, N0, N2, N1⟩ : Grid) P2 [M00, M01, M10, M11, M20] rfl rfl
    (collectScores_cons v202001021 (collectScores_cons v022001021 (collectScores_cons v002201021 (collectScores_cons v002021021 (collectScores_cons v002001221 collectScores_nil))))) rfl

theorem v002001020 : readBoardAux P2 8 (⟨N0, N0, N2, N0, N0, N1, N0, N2, N0⟩ : Grid) P1 = some (Z0, some M11) :=
  readBoardAux_step P2 7 (⟨N0, N0, N2, N0, N0, N1, N0, N2, N0⟩ : Grid) P1 [M00, M01, M10, M11, M20, M22] rfl rfl
    (collectScores_cons v102001020 (collectScores_cons v012001020 (collectScores_cons v002101020 (collectScores_cons v002011020 (collectScores_cons v002001120 (collectScores_cons v002001021 collectScores_nil)))))) rfl

theorem v002001102 : readBoardAux P2 7 (⟨N0, N0, N2, N0, N0, N1, N1, N0, N2⟩ : Grid) P2 = some (ZP, some M00) :=
  readBoardAux_step P2 6 (⟨N0, N0, N2, N0, N0, N1, N1, N0, N2⟩ : Grid) P2 [M00, M01, M10, M11, M21] rfl rfl
    (collectScores_cons v202001102 (collectScores_cons v022001102 (collectScores_cons v002201102 (collectScores_cons v002021102 (collectScores_cons v002001122 collectScores_nil))))) rfl

theorem v002001012 : readBoardAux P2 7 (⟨N0, N0, N2, N0, N0, N1, N0, N1, N2⟩ : Grid) P2 = some (ZP, some M00) :=
  readBoardAux_step P2 6 (⟨N0, N0, N2, N0, N0, N1, N0, N1, N2⟩ : Grid) P2 [M00, M01, M10, M11, M20] rfl rfl
    (collectScores_cons v202001012 (collectScores_cons v022001012 (collectScores_cons v002201012 (collectScores_cons v002021012 (collectScores_cons v002001212 collectScores_nil))))) rfl

theorem v002001002 : readBoardAux P2 8 (⟨N0, N0, N2, N0, N0, N1, N0, N0, N2⟩ : Grid) P1 = some (Z0, some M11) :=
  readBoardAux_step P2 7 (⟨N0, N0, N2, N0, N0, N1, N0, N0, N2⟩ : Grid) P1 [M00, M01, M10, M11, M20, M21] rfl rfl
    (collectScores_cons v102001002 (collectScores_cons v012001002 (collectScores_cons v002101002 (collectScores_cons v002011002 (collectScores_cons v002001102 (collectScores_cons v002001012 collectScores_nil)))))) rfl

theorem v002001000 : readBoardAux P2 9 (⟨N0, N0, N2, N0, N0, N1, N0, N0, N0⟩ : Grid) P2 = some (ZP, some M00) :=
  readBoardAux_step P2 8 (⟨N0, N0, N2, N0, N0, N1, N0, N0, N0⟩ : Grid) P2 [M00, M01, M10, M11, M20, M21, M22] rfl rfl
    (collectScores_cons v202001000 (collectScores_cons v022001000 (collectScores_cons v002201000 (collectScores_cons v002021000 (collectScores_cons v002001200 (collectScores_cons v002001020 (collectScores_cons v002001002 collectScores_nil))))))) rfl

theorem t002220111 : readBoardAux P2 5 (⟨N0, N0, N2, N2, N2, N0, N1, N1, N1⟩ : Grid) P2 = some (ZM, none) :=
  rfl

theorem v002220110 : readBoardAux P2 6 (⟨N0, N0, N2, N2, N2, N0, N1, N1, N0⟩ : Grid) P1 = some (ZM, some M22) :=
  readBoardAux_step P2 5 (⟨N0, N0, N2, N2, N2, N0, N1, N1, N0⟩ : Grid) P1 [M00, M01, M12, M22] rfl rfl
    (collectScores_cons v102220110 (collectScores_cons v012220110 (collectScores_cons v002221110 (collectScores_cons t002220111 collectScores_nil)))) rfl

theorem t002202111 : readBoardAux P2 5 (⟨N0, N0, N2, N2, N0, N2, N1, N1, N1⟩ : Grid) P2 = some (ZM, none) :=
  rfl

theorem v002202110 : readBoardAux P2 6 (⟨N0, N0, N2, N2, N0, N2, N1, N1, N0⟩ : Grid) P1 = some (ZM, some M22) :=
  readBoardAux_step P2 5 (⟨N0, N0, N2, N2, N0, N2, N1, N1, N0⟩ : Grid) P1 [M00, M01, M11, M22] rfl rfl
    (collectScores_cons v102202110 (collectScores_cons v012202110 (collectScores_cons v002212110 (collectScores_cons t002202111 collectScores_nil)))) rfl

theorem v002200112 : readBoardAux P2 6 (⟨N0, N0, N2, N2, N0, N0, N1, N1, N2⟩ : Grid) P1 = some (ZP, some M00) :=
  readBoardAux_step P2 5 (⟨N0, N0, N2, N2, N0, N0, N1, N1, N2⟩ : Grid) P1 [M00, M01, M11, M12] rfl rfl
    (collectScores_cons v102200112 (collectScores_cons v012200112 (collectScores_cons v002210112 (collectScores_cons v002201112 collectScores_nil)))) rfl

theorem v002200110 : readBoardAux P2 7 (⟨N0, N0, N2, N2, N0, N0, N1, N1, N0⟩ : Grid) P2 = some (ZP, some M22) :=
  readBoardAux_step P2 6 (⟨N0, N0, N2, N2, N0, N0, N1, N1, N0⟩ : Grid) P2 [M00, M01, M11, M12, M22] rfl rfl
    (collectScores_cons v202200110 (collectScores_cons v022200110 (collectScores_cons v002220110 (collectScores_cons v002202110 (collectScores_cons v002200112 collectScores_nil))))) rfl

theorem v002220101 : readBoardAux P2 6 (⟨N0, N0, N2, N2, N2, N0, N1, N0, N1⟩ : Grid) P1 = some (ZM, some M21) :=
  readBoardAux_step P2 5 (⟨N0, N0, N2, N2, N2, N0, N1, N0, N1⟩ : Grid) P1 [M00, M01, M12, M21] rfl rfl
    (collectScores_cons v102220101 (collectScores_cons v012220101 (collectScores_cons v002221101 (collectScores_cons t002220111 collectScores_nil)))) rfl

theorem v002202101 : readBoardAux P2 6 (⟨N0, N0, N2, N2, N0, N2, N1, N0, N1⟩ : Grid) P1 = some (ZM, some M11) :=
  readBoardAux_step P2 5 (⟨N0, N0, N2, N2, N0, N2, N1, N0, N1⟩ : Grid) P1 [M00, M01, M11, M21] rfl rfl
    (collectScores_cons v102202101 (collectScores_cons v012202101 (collectScores_cons v002212101 (collectScores_cons t002202111 collectScores_nil)))) rfl

theorem v002200121 : readBoardAux P2 6 (⟨N0, N0, N2, N2, N0, N0, N1, N2, N1⟩ : Grid) P1 = some (Z0, some M01) :=
  readBoardAux_step P2 5 (⟨N0, N0, N2, N2, N0, N0, N1, N2, N1⟩ : Grid) P1 [M00, M01, M11, M12] rfl rfl
    (collectScores_cons v102200121 (collectScores_cons v012200121 (collectScores_cons v002210121 (collectScores_cons v002201121 collectScores_nil)))) rfl

theorem v002200101 : readBoardAux P2 7 (⟨N0, N0, N2, N2, N0, N0, N1, N0, N1⟩ : Grid) P2 = some (Z0, some M21) :=
  readBoardAux_step P2 6 (⟨N0, N0, N2, N2, N0, N0, N1, N0, N1⟩ : Grid) P2 [M00, M01, M11, M12, M21] rfl rfl
    (collectScores_cons v202200101 (collectScores_cons v022200101 (collectScores_cons v002220101 (collectScores_cons v002202101 (collectScores_cons v002200121 collectScores_nil))))) rfl

theorem v002200100 : readBoardAux P2 8 (⟨N0, N0, N2, N2, N0, N0, N1, N0, N0⟩ : Grid) P1 = some (Z0, some M11) :=
  readBoardAux_step P2 7 (⟨N0, N0, N2, N2, N0, N0, N1, N0, N0⟩ : Grid) P1 [M00, M01, M11, M12, M21, M22] rfl rfl
    (collectScores_cons v102200100 (collectScores_cons v012200100 (collectScores_cons v002210100 (collectScores_cons v002201100 (collectScores_cons v002200110 (collectScores_cons v002200101 collectScores_nil)))))) rfl

theorem t002022111 : readBoardAux P2 5 (⟨N0, N0, N2, N0, N2, N2, N1, N1, N1⟩ : Grid) P2 = some (ZM, none) :=
  rfl

theorem v002022110 : readBoardAux P2 6 (⟨N0, N0, N2, N0, N2, N2, N1, N1, N0⟩ : Grid) P1 = some (ZM, some M22) :=
  readBoardAux_step P2 5 (⟨N0, N0, N2, N0, N2, N2, N1, N1, N0⟩ : Grid) P1 [M00, M01, M10, M22] rfl rfl
    (collectScores_cons v102022110 (collectScores_cons v012022110 (collectScores_cons v002122110 (collectScores_cons t002022111 collectScores_nil)))) rfl

theorem v002020112 : readBoardAux P2 6 (⟨N0, N0, N2, N0, N2, N0, N1, N1, N2⟩ : Grid) P1 = some (ZP, some M00) :=
  readBoardAux_step P2 5 (⟨N0, N0, N2, N0, N2, N0, N1, N1, N2⟩ : Grid) P1 [M00, M01, M10, M12] rfl rfl
    (collectScores_cons v102020112 (collectScores_cons v012020112 (collectScores_cons v002120112 (collectScores_cons v002021112 collectScores_nil)))) rfl

theorem v002020110 : readBoardAux P2 7 (⟨N0, N0, N2, N0, N2, N0, N1, N1, N0⟩ : Grid) P2 = some (ZP, some M22) :=
  readBoardAux_step P2 6 (⟨N0, N0, N2, N0, N2, N0, N1, N1, N0⟩ : Grid) P2 [M00, M01, M10, M12, M22] rfl rfl
    (collectScores_cons v202020110 (collectScores_cons v022020110 (collectScores_cons v002220110 (collectScores_cons v002022110 (collectScores_cons v002020112 collectScores_nil))))) rfl

theorem v002022101 : readBoardAux P2 6 (⟨N0, N0, N2, N0, N2, N2, N1, N0, N1⟩ : Grid) P1 = some (ZM, some M10) :=
  readBoardAux_step P2 5 (⟨N0, N0, N2, N0, N2, N2, N1, N0, N1⟩ : Grid) P1 [M00, M01, M10, M21] rfl rfl
    (collectScores_cons v102022101 (collectScores_cons v012022101 (collectScores_cons v002122101 (collectScores_cons t002022111 collectScores_nil)))) rfl

theorem v002020121 : readBoardAux P2 6 (⟨N0, N0, N2, N0, N2, N0, N1, N2, N1⟩ : Grid) P1 = some (Z0, some M01) :=
  readBoardAux_step P2 5 (⟨N0, N0, N2, N0, N2, N0, N1, N2, N1⟩ : Grid) P1 [M00, M01, M10, M12] rfl rfl
    (collectScores_cons v102020121 (collectScores_cons v012020121 (collectScores_cons v002120121 (collectScores_cons v002021121 collectScores_nil)))) rfl

theorem v002020101 : readBoardAux P2 7 (⟨N0, N0, N2, N0, N2, N0, N1, N0, N1⟩ : Grid) P2 = some (Z0, some M21) :=
  readBoardAux_step P2 6 (⟨N0, N0, N2, N0, N2, N0, N1, N0, N1⟩ : Grid) P2 [M00, M01, M10, M12, M21] rfl rfl
    (collectScores_cons v202020101 (collectScores_cons v022020101 (collectScores_cons v002220101 (collectScores_cons v002022101 (collectScores_cons v002020121 collectScores_nil))))) rfl

theorem v002020100 : readBoardAux P2 8 (⟨N0, N0, N2, N0, N2, N0, N1, N0, N0⟩ : Grid) P1 = some (Z0, some M00) :=
  readBoardAux_step P2 7 (⟨N0, N0, N2, N0, N2, N0, N1, N0, N0⟩ : Grid) P1 [M00, M01, M10, M12, M21, M22] rfl rfl
    (collectScores_cons v102020100 (collectScores_cons v012020100 (collectScores_cons v002120100 (collectScores_cons v002021100 (collectScores_cons v002020110 (collectScores_cons v002020101 collectScores_nil)))))) rfl

theorem t002002112 : readBoardAux P2 6 (⟨N0, N0, N2, N0, N0, N2, N1, N1, N2⟩ : Grid) P1 = some (ZP, none) :=
  rfl

theorem v002002110 : readBoardAux P2 7 (⟨N0, N0, N2, N0, N0, N2, N1, N1, N0⟩ : Grid) P2 = some (ZP, some M22) :=
  readBoardAux_step P2 6 (⟨N0, N0, N2, N0, N0, N2, N1, N1, N0⟩ : Grid) P2 [M00, M01, M10, M11, M22] rfl rfl
    (collectScores_cons v202002110 (collectScores_cons v022002110 (collectScores_cons v002202110 (collectScores_cons v002022110 (collectScores_cons t002002112 collectScores_nil))))) rfl

theorem v002002121 : readBoardAux P2 6 (⟨N0, N0, N2, N0, N0, N2, N1, N2, N1⟩ : Grid) P1 = some (ZM, some M00) :=
  readBoardAux_step P2 5 (⟨N0, N0, N2, N0, N0, N2, N1, N2, N1⟩ : Grid) P1 [M00, M01, M10, M11] rfl rfl
    (collectScores_cons v102002121 (collectScores_cons v012002121 (collectScores_cons v002102121 (collectScores_cons v002012121 collectScores_nil)))) rfl

theorem v002002101 : readBoardAux P2 7 (⟨N0, N0, N2, N0, N0, N2, N1, N0, N1⟩ : Grid) P2 = some (ZM, some M00) :=
  readBoardAux_step P2 6 (⟨N0, N0, N2, N0, N0, N2, N1, N0, N1⟩ : Grid) P2 [M00, M01, M10, M11, M21] rfl rfl
    (collectScores_cons v202002101 (collectScores_cons v022002101 (collectScores_cons v002202101 (collectScores_cons v002022101 (collectScores_cons v002002121 collectScores_nil))))) rfl

theorem v002002100 : readBoardAux P2 8 (⟨N0, N0, N2, N0, N0, N2, N1, N0, N0⟩ : Grid) P1 = some (ZM, some M22) :=
  readBoardAux_step P2 7 (⟨N0, N0, N2, N0, N0, N2, N1, N0, N0⟩ : Grid) P1 [M00, M01, M10, M11, M21, M22] rfl rfl
    (collectScores_cons v102002100 (collectScores_cons v012002100 (collectScores_cons v002102100 (collectScores_cons v002012100 (collectScores_cons v002002110 (collectScores_cons v002002101 collectScores_nil)))))) rfl

theorem v002000121 : readBoardAux P2 7 (⟨N0, N0, N2, N0, N0, N0, N1, N2, N1⟩ : Grid) P2 = some (ZP, some M01) :=
  readBoardAux_step P2 6 (⟨N0, N0, N2, N0, N0, N0, N1, N2, N1⟩ : Grid) P2 [M00, M01, M10, M11, M12] rfl rfl
    (collectScores_cons v202000121 (collectScores_cons v022000121 (collectScores_cons v002200121 (collectScores_cons v002020121 (collectScores_cons v002002121 collectScores_nil))))) rfl

theorem v002000120 : readBoardAux P2 8 (⟨N0, N0, N2, N0, N0, N0, N1, N2, N0⟩ : Grid) P1 = some (Z0, some M00) :=
  readBoardAux_step P2 7 (⟨N0, N0, N2, N0, N0, N0, N1, N2, N0⟩ : Grid) P1 [M00, M01, M10, M11, M12, M22] rfl rfl
    (collectScores_cons v102000120 (collectScores_cons v012000120 (collectScores_cons v002100120 (collectScores_cons v002010120 (collectScores_cons v002001120 (collectScores_cons v002000121 collectScores_nil)))))) rfl

theorem v002000112 : readBoardAux P2 7 (⟨N0, N0, N2, N0, N0, N0, N1, N1, N2⟩ : Grid) P2 = some (ZP, some M00) :=
  readBoardAux_step P2 6 (⟨N0, N0, N2, N0, N0, N0, N1, N1, N2⟩ : Grid) P2 [M00, M01, M10, M11, M12] rfl rfl
    (collectScores_cons v202000112 (collectScores_cons v022000112 (collectScores_cons v002200112 (collectScores_cons v002020112 (collectScores_cons t002002112 collectScores_nil))))) rfl

theorem v002000102 : readBoardAux P2 8 (⟨N0, N0, N2, N0, N0, N0, N1, N0, N2⟩ : Grid) P1 = some (ZP, some M00) :=
  readBoardAux_step P2 7 (⟨N0, N0, N2, N0, N0, N0, N1, N0, N2⟩ : Grid) P1 [M00, M01, M10, M11, M12, M21] rfl rfl
    (collectScores_cons v102000102 (collectScores_cons v012000102 (collectScores_cons v002100102 (collectScores_cons v002010102 (collectScores_cons v002001102 (collectScores_cons v002000112 collectScores_nil)))))) rfl

theorem v002000100 : readBoardAux P2 9 (⟨N0, N0, N2, N0, N0, N0, N1, N0, N0⟩ : Grid) P2 = some (ZP, some M00) :=
  readBoardAux_step P2 8 (⟨N0, N0, N2, N0, N0, N0, N1, N0, N0⟩ : Grid) P2 [M00, M01, M10, M11, M12, M21, M22] rfl rfl
    (collectScores_cons v202000100 (collectScores_cons v022000100 (collectScores_cons v002200100 (collectScores_cons v002020100 (collectScores_cons v002002100 (collectScores_cons v002000120 (collectScores_cons v002000102 collectScores_nil))))))) rfl

theorem v002220011 : readBoardAux P2 6 (⟨N0, N0, N2, N2, N2, N0, N0, N1, N1⟩ : Grid) P1 = some (ZM, some M20) :=
  readBoardAux_step P2 5 (⟨N0, N0, N2, N2, N2, N0, N0, N1, N1⟩ : Grid) P1 [M00, M01, M12, M20] rfl rfl
    (collectScores_cons v102220011 (collectScores_cons v012220011 (collectScores_cons v002221011 (collectScores_cons t002220111 collectScores_nil)))) rfl

theorem v002202011 : readBoardAux P2 6 (⟨N0, N0, N2, N2, N0, N2, N0, N1, N1⟩ : Grid) P1 = some (ZM, some M11) :=
  readBoardAux_step P2 5 (⟨N0, N0, N2, N2, N0, N2, N0, N1, N1⟩ : Grid) P1 [M00, M01, M11, M20] rfl rfl
    (collectScores_cons v102202011 (collectScores_cons v012202011 (collectScores_cons v002212011 (collectScores_cons t002202111 collectScores_nil)))) rfl

theorem v002200211 : readBoardAux P2 6 (⟨N0, N0, N2, N2, N0, N0, N2, N1, N1⟩ : Grid) P1 = some (ZP, some M00) :=
  readBoardAux_step P2 5 (⟨N0, N0, N2, N2, N0, N0, N2, N1, N1⟩ : Grid) P1 [M00, M01, M11, M12] rfl rfl
    (collectScores_cons v102200211 (collectScores_cons v012200211 (collectScores_cons v002210211 (collectScores_cons v002201211 collectScores_nil)))) rfl

theorem v002200011 : readBoardAux P2 7 (⟨N0, N0, N2, N2, N0, N0, N0, N1, N1⟩ : Grid) P2 = some (ZP, some M20) :=
  readBoardAux_step P2 6 (⟨N0, N0, N2, N2, N0, N0, N0, N1, N1⟩ : Grid) P2 [M00, M01, M11, M12, M20] rfl rfl
    (collectScores_cons v202200011 (collectScores_cons v022200011 (collectScores_cons v002220011 (collectScores_cons v002202011 (collectScores_cons v002200211 collectScores_nil))))) rfl

theorem v002200010 : readBoardAux P2 8 (⟨N0, N0, N2, N2, N0, N0, N0, N1, N0⟩ : Grid) P1 = some (Z0, some M11) :=
  readBoardAux_step P2 7 (⟨N0, N0, N2, N2, N0, N0, N0, N1, N0⟩ : Grid) P1 [M00, M01, M11, M12, M20, M22] rfl rfl
    (collectScores_cons v102200010 (collectScores_cons v012200010 (collectScores_cons v002210010 (collectScores_cons v002201010 (collectScores_cons v002200110 (collectScores_cons v002200011 collectScores_nil)))))) rfl

theorem v002022011 : readBoardAux P2 6 (⟨N0, N0, N2, N0, N2, N2, N0, N1, N1⟩ : Grid) P1 = some (ZM, some M20) :=
  readBoardAux_step P2 5 (⟨N0, N0, N2, N0, N2, N2, N0, N1, N1⟩ : Grid) P1 [M00, M01, M10, M20] rfl rfl
    (collectScores_cons v102022011 (collectScores_cons v012022011 (collectScores_cons v002122011 (collectScores_cons t002022111 collectScores_nil)))) rfl

theorem t002020211 : readBoardAux P2 6 (⟨N0, N0, N2, N0, N2, N0, N2, N1, N1⟩ : Grid) P1 = some (ZP, none) :=
  rfl

theorem v002020011 : readBoardAux P2 7 (⟨N0, N0, N2, N0, N2, N0, N0, N1, N1⟩ : Grid) P2 = some (ZP, some M20) :=
  readBoardAux_step P2 6 (⟨N0, N0, N2, N0, N2, N0, N0, N1, N1⟩ : Grid) P2 [M00, M01, M10, M12, M20] rfl rfl
    (collectScores_cons v202020011 (collectScores_cons v022020011 (collectScores_cons v002220011 (collectScores_cons v002022011 (collectScores_cons t002020211 collectScores_nil))))) rfl

theorem v002020010 : readBoardAux P2 8 (⟨N0, N0, N2, N0, N2, N0, N0, N1, N0⟩ : Grid) P1 = some (ZP, some M00) :=
  readBoardAux_step P2 7 (⟨N0, N0, N2, N0, N2, N0, N0, N1, N0⟩ : Grid) P1 [M00, M01, M10, M12, M20, M22] rfl rfl
    (collectScores_cons v102020010 (collectScores_cons v012020010 (collectScores_cons v002120010 (collectScores_cons v002021010 (collectScores_cons v002020110 (collectScores_cons v002020011 collectScores_nil)))))) rfl

theorem v002002211 : readBoardAux P2 6 (⟨N0, N0, N2, N0, N0, N2, N2, N1, N1⟩ : Grid) P1 = some (ZM, some M11) :=
  readBoardAux_step P2 5 (⟨N0, N0, N2, N0, N0, N2, N2, N1, N1⟩ : Grid) P1 [M00, M01, M10, M11] rfl rfl
    (collectScores_cons v102002211 (collectScores_cons v012002211 (collectScores_cons v002102211 (collectScores_cons v002012211 collectScores_nil)))) rfl

theorem v002002011 : readBoardAux P2 7 (⟨N0, N0, N2, N0, N0, N2, N0, N1, N1⟩ : Grid) P2 = some (ZM, some M00) :=
  readBoardAux_step P2 6 (⟨N0, N0, N2, N0, N0, N2, N0, N1, N1⟩ : Grid) P2 [M00, M01, M10, M11, M20] rfl rfl
    (collectScores_cons v202002011 (collectScores_cons v022002011 (collectScores_cons v002202011 (collectScores_cons v002022011 (collectScores_cons v002002211 collectScores_nil))))) rfl

theorem v002002010 : readBoardAux P2 8 (⟨N0, N0, N2, N0, N0, N2, N0, N1, N0⟩ : Grid) P1 = some (ZM, some M22) :=
  readBoardAux_step P2 7 (⟨N0, N0, N2, N0, N0, N2, N0, N1, N0⟩ : Grid) P1 [M00, M01, M10, M11, M20, M22] rfl rfl
    (collectScores_cons v102002010 (collectScores_cons v012002010 (collectScores_cons v002102010 (collectScores_cons v002012010 (collectScores_cons v002002110 (collectScores_cons v002002011 collectScores_nil)))))) rfl

theorem v002000211 : readBoardAux P2 7 (⟨N0, N0, N2, N0, N0, N0, N2, N1, N1⟩ : Grid) P2 = some (ZP, some M00) :=
  readBoardAux_step P2 6 (⟨N0, N0, N2, N0, N0, N0, N2, N1, N1⟩ : Grid) P2 [M00, M01, M10, M11, M12] rfl rfl
    (collectScores_cons v202000211 (collectScores_cons v022000211 (collectScores_cons v002200211 (collectScores_cons t002020211 (collectScores_cons v002002211 collectScores_nil))))) rfl

theorem v002000210 : readBoardAux P2 8 (⟨N0, N0, N2, N0, N0, N0, N2, N1, N0⟩ : Grid) P1 = some (Z0, some M11) :=
  readBoardAux_step P2 7 (⟨N0, N0, N2, N0, N0, N0, N2, N1, N0⟩ : Grid) P1 [M00, M01, M10, M11, M12, M22] rfl rfl
    (collectScores_cons v102000210 (collectScores_cons v012000210 (collectScores_cons v002100210 (collectScores_cons v002010210 (collectScores_cons v002001210 (collectScores_cons v002000211 collectScores_nil)))))) rfl

theorem v002000012 : readBoardAux P2 8 (⟨N0, N0, N2, N0, N0, N0, N0, N1, N2⟩ : Grid) P1 = some (ZP, some M00) :=
  readBoardAux_step P2 7 (⟨N0, N0, N2, N0, N0, N0, N0, N1, N2⟩ : Grid) P1 [M00, M01, M10, M11, M12, M20] rfl rfl
    (collectScores_cons v102000012 (collectScores_cons v012000012 (collectScores_cons v002100012 (collectScores_cons v002010012 (collectScores_cons v002001012 (collectScores_cons v002000112 collectScores_nil)))))) rfl

theorem v002000010 : readBoardAux P2 9 (⟨N0, N0, N2, N0, N0, N0, N0, N1, N0⟩ : Grid) P2 = some (ZP, some M00) :=
  readBoardAux_step P2 8 (⟨N0, N0, N2, N0, N0, N0, N0, N1, N0⟩ : Grid) P2 [M00, M01, M10, M11, M12, M20, M22] rfl rfl
    (collectScores_cons v202000010 (collectScores_cons v022000010 (collectScores_cons v002200010 (collectScores_cons v002020010 (collectScores_cons v002002010 (collectScores_cons v002000210 (collectScores_cons v002000012 collectScores_nil))))))) rfl

theorem v002200001 : readBoardAux P2 8 (⟨N0, N0, N2, N2, N0, N0, N0, N0, N1⟩ : Grid) P1 = some (Z0, some M20) :=
  readBoardAux_step P2 7 (⟨N0, N0, N2, N2, N0, N0, N0, N0, N1⟩ : Grid) P1 [M00, M01, M11, M12, M20, M21] rfl rfl
    (collectScores_cons v102200001 (collectScores_cons v012200001 (collectScores_cons v002210001 (collectScores_cons v002201001 (collectScores_cons v002200101 (collectScores_cons v002200011 collectScores_nil)))))) rfl

theorem v002020001 : readBoardAux P2 8 (⟨N0, N0, N2, N0, N2, N0, N0, N0, N1⟩ : Grid) P1 = some (Z0, some M20) :=
  readBoardAux_step P2 7 (⟨N0, N0, N2, N0, N2, N0, N0, N0, N1⟩ : Grid) P1 [M00, M01, M10, M12, M20, M21] rfl rfl
    (collectScores_cons v102020001 (collectScores_cons v012020001 (collectScores_cons v002120001 (collectScores_cons v002021001 (collectScores_cons v002020101 (collectScores_cons v002020011 collectScores_nil)))))) rfl

theorem v002002001 : readBoardAux P2 8 (⟨N0, N0, N2, N0, N0, N2, N0, N0, N1⟩ : Grid) P1 = some (ZM, some M20) :=
  readBoardAux_step P2 7 (⟨N0, N0, N2, N0, N0, N2, N0, N0, N1⟩ : Grid) P1 [M00, M01, M10, M11, M20, M21] rfl rfl
    (collectScores_cons v102002001 (collectScores_cons v012002001 (collectScores_cons v002102001 (collectScores_cons v002012001 (collectScores_cons v002002101 (collectScores_cons v002002011 collectScores_nil)))))) rfl

theorem v002000201 : readBoardAux P2 8 (⟨N0, N0, N2, N0, N0, N0, N2, N0, N1⟩ : Grid) P1 = some (ZP, some M00) :=
  readBoardAux_step P2 7 (⟨N0, N0, N2, N0, N0, N0, N2, N0, N1⟩ : Grid) P1 [M00, M01, M10, M11, M12, M21] rfl rfl
    (collectScores_cons v102000201 (collectScores_cons v012000201 (collectScores_cons v002100201 (collectScores_cons v002010201 (collectScores_cons v002001201 (collectScores_cons v002000211 collectScores_nil)))))) rfl

theorem v002000021 : readBoardAux P2 8 (⟨N0, N0, N2, N0, N0, N0, N0, N2, N1⟩ : Grid) P1 = some (Z0, some M01) :=
  readBoardAux_step P2 7 (⟨N0, N0, N2, N0, N0, N0, N0, N2, N1⟩ : Grid) P1 [M00, M01, M10, M11, M12, M20] rfl rfl
    (collectScores_cons v102000021 (collectScores_cons v012000021 (collectScores_cons v002100021 (collectScores_cons v002010021 (collectScores_cons v002001021 (collectScores_cons v002000121 collectScores_nil)))))) rfl

theorem v002000001 : readBoardAux P2 9 (⟨N0, N0, N2, N0, N0, N0, N0, N0, N1⟩ : Grid) P2 = some (ZP, some M00) :=
  readBoardAux_step P2 8 (⟨N0, N0, N2, N0, N0, N0, N0, N0, N1⟩ : Grid) P2 [M00, M01, M10, M11, M12, M20, M21] rfl rfl
    (collectScores_cons v202000001 (collectScores_cons v022000001 (collectScores_cons v002200001 (collectScores_cons v002020001 (collectScores_cons v002002001 (collectScores_cons v002000201 (collectScores_cons v002000021 collectScores_nil))))))) rfl

theorem v002000000 : readBoardAux P2 10 (⟨N0, N0, N2, N0, N0, N0, N0, N0, N0⟩ : Grid) P1 = some (Z0, some M11) :=
  readBoardAux_step P2 9 (⟨N0, N0, N2, N0, N0, N0, N0, N0, N0⟩ : Grid) P1 [M00, M01, M10, M11, M12, M20, M21, M22] rfl rfl
    (collectScores_cons v102000000 (collectScores_cons v012000000 (collectScores_cons v002100000 (collectScores_cons v002010000 (collectScores_cons v002001000 (collectScores_cons v002000100 (collectScores_cons v002000010 (collectScores_cons v002000001 collectScores_nil)))))))) rfl

theorem t110222000 : readBoardAux P2 6 (⟨N1, N1, N0, N2, N2, N2, N0, N0, N0⟩ : Grid) P1 = some (ZP, none) :=
  rfl

theorem t111220200 : readBoardAux P2 5 (⟨N1, N1, N1, N2, N2, N0, N2, N0, N0⟩ : Grid) P2 = some (ZM, none) :=
  rfl

theorem t111221220 : readBoardAux P2 3 (⟨N1, N1, N1, N2, N2, N1, N2, N2, N0⟩ : Grid) P2 = some (ZM, none) :=
  rfl

theorem v110221221 : readBoardAux P2 3 (⟨N1, N1, N0, N2, N2, N1, N2, N2, N1⟩ : Grid) P2 = some (ZP, some M02) :=
  readBoardAux_step P2 2 (⟨N1, N1, N0, N2, N2, N1, N2, N2, N1⟩ : Grid) P2 [M02] rfl rfl
    (collectScores_cons t112221221 collectScores_nil) rfl

theorem v110221220 : readBoardAux P2 4 (⟨N1, N1, N0, N2, N2, N1, N2, N2, N0⟩ : Grid) P1 = some (ZM, some M02) :=
  readBoardAux_step P2 3 (⟨N1, N1, N0, N2, N2, N1, N2, N2, N0⟩ : Grid) P1 [M02, M22] rfl rfl
    (collectScores_cons t111221220 (collectScores_cons v110221221 collectScores_nil)) rfl

theorem t111221202 : readBoardAux P2 3 (⟨N1, N1, N1, N2, N2, N1, N2, N0, N2⟩ : Grid) P2 = some (ZM, none) :=
  rfl

theorem v110221212 : readBoardAux P2 3 (⟨N1, N1, N0, N2, N2, N1, N2, N1, N2⟩ : Grid) P2 = some (ZP, some M02) :=
  readBoardAux_step P2 2 (⟨N1, N1, N0, N2, N2, N1, N2, N1, N2⟩ : Grid) P2 [M02] rfl rfl
    (collectScores_cons t112221212 collectScores_nil) rfl

theorem v110221202 : readBoardAux P2 4 (⟨N1, N1, N0, N2, N2, N1, N2, N0, N2⟩ : Grid) P1 = some (ZM, some M02) :=
  readBoardAux_step P2 3 (⟨N1, N1, N0, N2, N2, N1, N2, N0, N2⟩ : Grid) P1 [M02, M21] rfl rfl
    (collectScores_cons t111221202 (collectScores_cons v110221212 collectScores_nil)) rfl

theorem v110221200 : readBoardAux P2 5 (⟨N1, N1, N0, N2, N2, N1, N2, N0, N0⟩ : Grid) P2 = some (ZP, some M02) :=
  readBoardAux_step P2 4 (⟨N1, N1, N0, N2, N2, N1, N2, N0, N0⟩ : Grid) P2 [M02, M21, M22] rfl rfl
    (collectScores_cons t112221200 (collectScores_cons v110221220 (collectScores_cons v110221202 collectScores_nil))) rfl

theorem t110222210 : readBoardAux P2 4 (⟨N1, N1, N0, N2, N2, N2, N2, N1, N0⟩ : Grid) P1 = some (ZP, none) :=
  rfl

theorem t111220212 : readBoardAux P2 3 (⟨N1, N1, N1, N2, N2, N0, N2, N1, N2⟩ : Grid) P2 = some (ZM, none) :=
  rfl

theorem v110220212 : readBoardAux P2 4 (⟨N1, N1, N0, N2, N2, N0, N2, N1, N2⟩ : Grid) P1 = some (ZM, some M02) :=
  readBoardAux_step P2 3 (⟨N1, N1, N0, N2, N2, N0, N2, N1, N2⟩ : Grid) P1 [M02, M12] rfl rfl
    (collectScores_cons t111220212 (collectScores_cons v110221212 collectScores_nil)) rfl

theorem v110220210 : readBoardAux P2 5 (⟨N1, N1, N0, N2, N2, N0, N2, N1, N0⟩ : Grid) P2 = some (ZP, some M02) :=
  readBoardAux_step P2 4 (⟨N1, N1, N0, N2, N2, N0, N2, N1, N0⟩ : Grid) P2 [M02, M12, M22] rfl rfl
    (collectScores_cons t112220210 (collectScores_cons t110222210 (collectScores_cons v110220212 collectScores_nil))) rfl

theorem t110222201 : readBoardAux P2 4 (⟨N1, N1, N0, N2, N2, N2, N2, N0, N1⟩ : Grid) P1 = some (ZP, none) :=
  rfl

theorem t111220221 : readBoardAux P2 3 (⟨N1, N1, N1, N2, N2, N0, N2, N2, N1⟩ : Grid) P2 = some (ZM, none) :=
  rfl

theorem v110220221 : readBoardAux P2 4 (⟨N1, N1, N0, N2, N2, N0, N2, N2, N1⟩ : Grid) P1 = some (ZM, some M02) :=
  readBoardAux_step P2 3 (⟨N1, N1, N0, N2, N2, N0, N2, N2, N1⟩ : Grid) P1 [M02, M12] rfl rfl
    (collectScores_cons t111220221 (collectScores_cons v110221221 collectScores_nil)) rfl

theorem v110220201 : readBoardAux P2 5 (⟨N1, N1, N0, N2, N2, N0, N2, N0, N1⟩ : Grid) P2 = some (ZP, some M02) :=
  readBoardAux_step P2 4 (⟨N1, N1, N0, N2, N2, N0, N2, N0, N1⟩ : Grid) P2 [M02, M12, M21] rfl rfl
    (collectScores_cons t112220201 (collectScores_cons t110222201 (collectScores_cons v110220221 collectScores_nil))) rfl

theorem v110220200 : readBoardAux P2 6 (⟨N1, N1, N0, N2, N2, N0, N2, N0, N0⟩ : Grid) P1 = some (ZM, some M02) :=
  readBoardAux_step P2 5 (⟨N1, N1, N0, N2, N2, N0, N2, N0, N0⟩ : Grid) P1 [M02, M12, M21, M22] rfl rfl
    (collectScores_cons t111220200 (collectScores_cons v110221200 (collectScores_cons v110220210 (collectScores_cons v110220201 collectScores_nil)))) rfl

theorem t111220020 : readBoardAux P2 5 (⟨N1, N1, N1, N2, N2, N0, N0, N2, N0⟩ : Grid) P2 = some (ZM, none) :=
  rfl

theorem t111221022 : readBoardAux P2 3 (⟨N1, N1, N1, N2, N2, N1, N0, N2, N2⟩ : Grid) P2 = some (ZM, none) :=
  rfl

theorem v110221122 : readBoardAux P2 3 (⟨N1, N1, N0, N2, N2, N1, N1, N2, N2⟩ : Grid) P2 = some (Z0, some M02) :=
  readBoardAux_step P2 2 (⟨N1, N1, N0, N2, N2, N1, N1, N2, N2⟩ : Grid) P2 [M02] rfl rfl
    (collectScores_cons t112221122 collectScores_nil) rfl

theorem v110221022 : readBoardAux P2 4 (⟨N1, N1, N0, N2, N2, N1, N0, N2, N2⟩ : Grid) P1 = some (ZM, some M02) :=
  readBoardAux_step P2 3 (⟨N1, N1, N0, N2, N2, N1, N0, N2, N2⟩ : Grid) P1 [M02, M20] rfl rfl
    (collectScores_cons t111221022 (collectScores_cons v110221122 collectScores_nil)) rfl

theorem v110221020 : readBoardAux P2 5 (⟨N1, N1, N0, N2, N2, N1, N0, N2, N0⟩ : Grid) P2 = some (Z0, some M02) :=
  readBoardAux_step P2 4 (⟨N1, N1, N0, N2, N2, N1, N0, N2, N0⟩ : Grid) P2 [M02, M20, M22] rfl rfl
    (collectScores_cons v112221020 (collectScores_cons v110221220 (collectScores_cons v110221022 collectScores_nil))) rfl

theorem t110222120 : readBoardAux P2 4 (⟨N1, N1, N0, N2, N2, N2, N1, N2, N0⟩ : Grid) P1 = some (ZP, none) :=
  rfl

theorem t111220122 : readBoardAux P2 3 (⟨N1, N1, N1, N2, N2, N0, N1, N2, N2⟩ : Grid) P2 = some (ZM, none) :=
  rfl

theorem v110220122 : readBoardAux P2 4 (⟨N1, N1, N0, N2, N2, N0, N1, N2, N2⟩ : Grid) P1 = some (ZM, some M02) :=
  readBoardAux_step P2 3 (⟨N1, N1, N0, N2, N2, N0, N1, N2, N2⟩ : Grid) P1 [M02, M12] rfl rfl
    (collectScores_cons t111220122 (collectScores_cons v110221122 collectScores_nil)) rfl

theorem v110220120 : readBoardAux P2 5 (⟨N1, N1, N0, N2, N2, N0, N1, N2, N0⟩ : Grid) P2 = some (ZP, some M12) :=
  readBoardAux_step P2 4 (⟨N1, N1, N0, N2, N2, N0, N1, N2, N0⟩ : Grid) P2 [M02, M12, M22] rfl rfl
    (collectScores_cons v112220120 (collectScores_cons t110222120 (collectScores_cons v110220122 collectScores_nil))) rfl

theorem t110222021 : readBoardAux P2 4 (⟨N1, N1, N0, N2, N2, N2, N0, N2, N1⟩ : Grid) P1 = some (ZP, none) :=
  rfl

theorem v110220021 : readBoardAux P2 5 (⟨N1, N1, N0, N2, N2, N0, N0, N2, N1⟩ : Grid) P2 = some (ZP, some M02) :=
  readBoardAux_step P2 4 (⟨N1, N1, N0, N2, N2, N0, N0, N2, N1⟩ : Grid) P2 [M02, M12, M20] rfl rfl
    (collectScores_cons v112220021 (collectScores_cons t110222021 (collectScores_cons v110220221 collectScores_nil))) rfl

theorem v110220020 : readBoardAux P2 6 (⟨N1, N1, N0, N2, N2, N0, N0, N2, N0⟩ : Grid) P1 = some (ZM, some M02) :=
  readBoardAux_step P2 5 (⟨N1, N1, N0, N2, N2, N0, N0, N2, N0⟩ : Grid) P1 [M02, M12, M20, M22] rfl rfl
    (collectScores_cons t111220020 (collectScores_cons v110221020 (collectScores_cons v110220120 (collectScores_cons v110220021 collectScores_nil)))) rfl

theorem t111220002 : readBoardAux P2 5 (⟨N1, N1, N1, N2, N2, N0, N0, N0, N2⟩ : Grid) P2 = some (ZM, none) :=
  rfl

theorem v110221002 : readBoardAux P2 5 (⟨N1, N1, N0, N2, N2, N1, N0, N0, N2⟩ : Grid) P2 = some (Z0, some M02) :=
  readBoardAux_step P2 4 (⟨N1, N1, N0, N2, N2, N1, N0, N0, N2⟩ : Grid) P2 [M02, M20, M21] rfl rfl
    (collectScores_cons v112221002 (collectScores_cons v110221202 (collectScores_cons v110221022 collectScores_nil))) rfl

theorem t110222102 : readBoardAux P2 4 (⟨N1, N1, N0, N2, N2, N2, N1, N0, N2⟩ : Grid) P1 = some (ZP, none) :=
  rfl

theorem v110220102 : readBoardAux P2 5 (⟨N1, N1, N0, N2, N2, N0, N1, N0, N2⟩ : Grid) P2 = some (ZP, some M12) :=
  readBoardAux_step P2 4 (⟨N1, N1, N0, N2, N2, N0, N1, N0, N2⟩ : Grid) P2 [M02, M12, M21] rfl rfl
    (collectScores_cons v112220102 (collectScores_cons t110222102 (collectScores_cons v110220122 collectScores_nil))) rfl

theorem t110222012 : readBoardAux P2 4 (⟨N1, N1, N0, N2, N2, N2, N0, N1, N2⟩ : Grid) P1 = some (ZP, none) :=
  rfl

theorem v110220012 : readBoardAux P2 5 (⟨N1, N1, N0, N2, N2, N0, N0, N1, N2⟩ : Grid) P2 = some (ZP, some M02) :=
  readBoardAux_step P2 4 (⟨N1, N1, N0, N2, N2, N0, N0, N1, N2⟩ : Grid) P2 [M02, M12, M20] rfl rfl
    (collectScores_cons v112220012 (collectScores_cons t110222012 (collectScores_cons v110220212 collectScores_nil))) rfl

theorem v110220002 : readBoardAux P2 6 (⟨N1, N1, N0, N2, N2, N0, N0, N0, N2⟩ : Grid) P1 = some (ZM, some M02) :=
  readBoardAux_step P2 5 (⟨N1, N1, N0, N2, N2, N0, N0, N0, N2⟩ : Grid) P1 [M02, M12, M20, M21] rfl rfl
    (collectScores_cons t111220002 (collectScores_cons v110221002 (collectScores_cons v110220102 (collectScores_cons v110220012 collectScores_nil)))) rfl

theorem v110220000 : readBoardAux P2 7 (⟨N1, N1, N0, N2, N2, N0, N0, N0, N0⟩ : Grid) P2 = some (ZP, some M02) :=
  readBoardAux_step P2 6 (⟨N1, N1, N0, N2, N2, N0, N0, N0, N0⟩ : Grid) P2 [M02, M12, M20, M21, M22] rfl rfl
    (collectScores_cons v112220000 (collectScores_cons t110222000 (collectScores_cons v110220200 (collectScores_cons v110220020 (collectScores_cons v110220002 collectScores_nil))))) rfl

theorem t101222000 : readBoardAux P2 6 (⟨N1, N0, N1, N2, N2, N2, N0, N0, N0⟩ : Grid) P1 = some (ZP, none) :=
  rfl

theorem t101221221 : readBoardAux P2 3 (⟨N1, N0, N1, N2, N2, N1, N2, N2, N1⟩ : Grid) P2 = some (ZM, none) :=
  rfl

theorem v101221220 : readBoardAux P2 4 (⟨N1, N0, N1, N2, N2, N1, N2, N2, N0⟩ : Grid) P1 = some (ZM, some M01) :=
  readBoardAux_step P2 3 (⟨N1, N0, N1, N2, N2, N1, N2, N2, N0⟩ : Grid) P1 [M01, M22] rfl rfl
    (collectScores_cons t111221220 (collectScores_cons t101221221 collectScores_nil)) rfl

theorem v101221212 : readBoardAux P2 3 (⟨N1, N0, N1, N2, N2, N1, N2, N1, N2⟩ : Grid) P2 = some (Z0, some M01) :=
  readBoardAux_step P2 2 (⟨N1, N0, N1, N2, N2, N1, N2, N1, N2⟩ : Grid) P2 [M01] rfl rfl
    (collectScores_cons t121221212 collectScores_nil) rfl

theorem v101221202 : readBoardAux P2 4 (⟨N1, N0, N1, N2, N2, N1, N2, N0, N2⟩ : Grid) P1 = some (ZM, some M01) :=
  readBoardAux_step P2 3 (⟨N1, N0, N1, N2, N2, N1, N2, N0, N2⟩ : Grid) P1 [M01, M21] rfl rfl
    (collectScores_cons t111221202 (collectScores_cons v101221212 collectScores_nil)) rfl

theorem v101221200 : readBoardAux P2 5 (⟨N1, N0, N1, N2, N2, N1, N2, N0, N0⟩ : Grid) P2 = some (ZM, some M01) :=
  readBoardAux_step P2 4 (⟨N1, N0, N1, N2, N2, N1, N2, N0, N0⟩ : Grid) P2 [M01, M21, M22] rfl rfl
    (collectScores_cons v121221200 (collectScores_cons v101221220 (collectScores_cons v101221202 collectScores_nil))) rfl

theorem t101222210 : readBoardAux P2 4 (⟨N1, N0, N1, N2, N2, N2, N2, N1, N0⟩ : Grid) P1 = some (ZP, none) :=
  rfl

theorem v101220212 : readBoardAux P2 4 (⟨N1, N0, N1, N2, N2, N0, N2, N1, N2⟩ : Grid) P1 = some (ZM, some M01) :=
  readBoardAux_step P2 3 (⟨N1, N0, N1, N2, N2, N0, N2, N1, N2⟩ : Grid) P1 [M01, M12] rfl rfl
    (collectScores_cons t111220212 (collectScores_cons v101221212 collectScores_nil)) rfl

theorem v101220210 : readBoardAux P2 5 (⟨N1, N0, N1, N2, N2, N0, N2, N1, N0⟩ : Grid) P2 = some (ZP, some M12) :=
  readBoardAux_step P2 4 (⟨N1, N0, N1, N2, N2, N0, N2, N1, N0⟩ : Grid) P2 [M01, M12, M22] rfl rfl
    (collectScores_cons v121220210 (collectScores_cons t101222210 (collectScores_cons v101220212 collectScores_nil))) rfl

theorem t101222201 : readBoardAux P2 4 (⟨N1, N0, N1, N2, N2, N2, N2, N0, N1⟩ : Grid) P1 = some (ZP, none) :=
  rfl

theorem v101220221 : readBoardAux P2 4 (⟨N1, N0, N1, N2, N2, N0, N2, N2, N1⟩ : Grid) P1 = some (ZM, some M01) :=
  readBoardAux_step P2 3 (⟨N1, N0, N1, N2, N2, N0, N2, N2, N1⟩ : Grid) P1 [M01, M12] rfl rfl
    (collectScores_cons t111220221 (collectScores_cons t101221221 collectScores_nil)) rfl

theorem v101220201 : readBoardAux P2 5 (⟨N1, N0, N1, N2, N2, N0, N2, N0, N1⟩ : Grid) P2 = some (ZP, some M12) :=
  readBoardAux_step P2 4 (⟨N1, N0, N1, N2, N2, N0, N2, N0, N1⟩ : Grid) P2 [M01, M12, M21] rfl rfl
    (collectScores_cons v121220201 (collectScores_cons t101222201 (collectScores_cons v101220221 collectScores_nil))) rfl

theorem v101220200 : readBoardAux P2 6 (⟨N1, N0, N1, N2, N2, N0, N2, N0, N0⟩ : Grid) P1 = some (ZM, some M01) :=
  readBoardAux_step P2 5 (⟨N1, N0, N1, N2, N2, N0, N2, N0, N0⟩ : Grid) P1 [M01, M12, M21, M22] rfl rfl
    (collectScores_cons t111220200 (collectScores_cons v101221200 (collectScores_cons v101220210 (collectScores_cons v101220201 collectScores_nil)))) rfl

theorem v101221122 : readBoardAux P2 3 (⟨N1, N0, N1, N2, N2, N1, N1, N2, N2⟩ : Grid) P2 = some (ZP, some M01) :=
  readBoardAux_step P2 2 (⟨N1, N0, N1, N2, N2, N1, N1, N2, N2⟩ : Grid) P2 [M01] rfl rfl
    (collectScores_cons t121221122 collectScores_nil) rfl

theorem v101221022 : readBoardAux P2 4 (⟨N1, N0, N1, N2, N2, N1, N0, N2, N2⟩ : Grid) P1 = some (ZM, some M01) :=
  readBoardAux_step P2 3 (⟨N1, N0, N1, N2, N2, N1, N0, N2, N2⟩ : Grid) P1 [M01, M20] rfl rfl
    (collectScores_cons t111221022 (collectScores_cons v101221122 collectScores_nil)) rfl

theorem v101221020 : readBoardAux P2 5 (⟨N1, N0, N1, N2, N2, N1, N0, N2, N0⟩ : Grid) P2 = some (ZP, some M01) :=
  readBoardAux_step P2 4 (⟨N1, N0, N1, N2, N2, N1, N0, N2, N0⟩ : Grid) P2 [M01, M20, M22] rfl rfl
    (collectScores_cons t121221020 (collectScores_cons v101221220 (collectScores_cons v101221022 collectScores_nil))) rfl

theorem t101222120 : readBoardAux P2 4 (⟨N1, N0, N1, N2, N2, N2, N1, N2, N0⟩ : Grid) P1 = some (ZP, none) :=
  rfl

theorem v101220122 : readBoardAux P2 4 (⟨N1, N0, N1, N2, N2, N0, N1, N2, N2⟩ : Grid) P1 = some (ZM, some M01) :=
  readBoardAux_step P2 3 (⟨N1, N0, N1, N2, N2, N0, N1, N2, N2⟩ : Grid) P1 [M01, M12] rfl rfl
    (collectScores_cons t111220122 (collectScores_cons v101221122 collectScores_nil)) rfl

theorem v101220120 : readBoardAux P2 5 (⟨N1, N0, N1, N2, N2, N0, N1, N2, N0⟩ : Grid) P2 = some (ZP, some M01) :=
  readBoardAux_step P2 4 (⟨N1, N0, N1, N2, N2, N0, N1, N2, N0⟩ : Grid) P2 [M01, M12, M22] rfl rfl
    (collectScores_cons t121220120 (collectScores_cons t101222120 (collectScores_cons v101220122 collectScores_nil))) rfl

theorem t101222021 : readBoardAux P2 4 (⟨N1, N0, N1, N2, N2, N2, N0, N2, N1⟩ : Grid) P1 = some (ZP, none) :=
  rfl

theorem v101220021 : readBoardAux P2 5 (⟨N1, N0, N1, N2, N2, N0, N0, N2, N1⟩ : Grid) P2 = some (ZP, some M01) :=
  readBoardAux_step P2 4 (⟨N1, N0, N1, N2, N2, N0, N0, N2, N1⟩ : Grid) P2 [M01, M12, M20] rfl rfl
    (collectScores_cons t121220021 (collectScores_cons t101222021 (collectScores_cons v101220221 collectScores_nil))) rfl

theorem v101220020 : readBoardAux P2 6 (⟨N1, N0, N1, N2, N2, N0, N0, N2, N0⟩ : Grid) P1 = some (ZM, some M01) :=
  readBoardAux_step P2 5 (⟨N1, N0, N1, N2, N2, N0, N0, N2, N0⟩ : Grid) P1 [M01, M12, M20, M22] rfl rfl
    (collectScores_cons t111220020 (collectScores_cons v101221020 (collectScores_cons v101220120 (collectScores_cons v101220021 collectScores_nil)))) rfl

theorem v101221002 : readBoardAux P2 5 (⟨N1, N0, N1, N2, N2, N1, N0, N0, N2⟩ : Grid) P2 = some (Z0, some M01) :=
  readBoardAux_step P2 4 (⟨N1, N0, N1, N2, N2, N1, N0, N0, N2⟩ : Grid) P2 [M01, M20, M21] rfl rfl
    (collectScores_cons v121221002 (collectScores_cons v101221202 (collectScores_cons v101221022 collectScores_nil))) rfl

theorem t101222102 : readBoardAux P2 4 (⟨N1, N0, N1, N2, N2, N2, N1, N0, N2⟩ : Grid) P1 = some (ZP, none) :=
  rfl

theorem v101220102 : readBoardAux P2 5 (⟨N1, N0, N1, N2, N2, N0, N1, N0, N2⟩ : Grid) P2 = some (ZP, some M01) :=
  readBoardAux_step P2 4 (⟨N1, N0, N1, N2, N2, N0, N1, N0, N2⟩ : Grid) P2 [M01, M12, M21] rfl rfl
    (collectScores_cons v121220102 (collectScores_cons t101222102 (collectScores_cons v101220122 collectScores_nil))) rfl

theorem t101222012 : readBoardAux P2 4 (⟨N1, N0, N1, N2, N2, N2, N0, N1, N2⟩ : Grid) P1 = some (ZP, none) :=
  rfl

theorem v101220012 : readBoardAux P2 5 (⟨N1, N0, N1, N2, N2, N0, N0, N1, N2⟩ : Grid) P2 = some (ZP, some M12) :=
  readBoardAux_step P2 4 (⟨N1, N0, N1, N2, N2, N0, N0, N1, N2⟩ : Grid) P2 [M01, M12, M20] rfl rfl
    (collectScores_cons v121220012 (collectScores_cons t101222012 (collectScores_cons v101220212 collectScores_nil))) rfl

theorem v101220002 : readBoardAux P2 6 (⟨N1, N0, N1, N2, N2, N0, N0, N0, N2⟩ : Grid) P1 = some (ZM, some M01) :=
  readBoardAux_step P2 5 (⟨N1, N0, N1, N2, N2, N0, N0, N0, N2⟩ : Grid) P1 [M01, M12, M20, M21] rfl rfl
    (collectScores_cons t111220002 (collectScores_cons v101221002 (collectScores_cons v101220102 (collectScores_cons v101220012 collectScores_nil)))) rfl

theorem v101220000 : readBoardAux P2 7 (⟨N1, N0, N1, N2, N2, N0, N0, N0, N0⟩ : Grid) P2 = some (ZP, some M01) :=
  readBoardAux_step P2 6 (⟨N1, N0, N1, N2, N2, N0, N0, N0, N0⟩ : Grid) P2 [M01, M12, M20, M21, M22] rfl rfl
    (collectScores_cons v121220000 (collectScores_cons t101222000 (collectScores_cons v101220200 (collectScores_cons v101220020 (collectScores_cons v101220002 collectScores_nil))))) rfl

theorem v100221212 : readBoardAux P2 4 (⟨N1, N0, N0, N2, N2, N1, N2, N1, N2⟩ : Grid) P1 = some (Z0, some M02) :=
  readBoardAux_step P2 3 (⟨N1, N0, N0, N2, N2, N1, N2, N1, N2⟩ : Grid) P1 [M01, M02] rfl rfl
    (collectScores_cons v110221212 (collectScores_cons v101221212 collectScores_nil)) rfl

theorem v100221210 : readBoardAux P2 5 (⟨N1, N0, N0, N2, N2, N1, N2, N1, N0⟩ : Grid) P2 = some (ZP, some M02) :=
  readBoardAux_step P2 4 (⟨N1, N0, N0, N2, N2, N1, N2, N1, N0⟩ : Grid) P2 [M01, M02, M22] rfl rfl
    (collectScores_cons v120221210 (collectScores_cons t102221210 (collectScores_cons v100221212 collectScores_nil))) rfl

theorem v100221221 : readBoardAux P2 4 (⟨N1, N0, N0, N2, N2, N1, N2, N2, N1⟩ : Grid) P1 = some (ZM, some M02) :=
  readBoardAux_step P2 3 (⟨N1, N0, N0, N2, N2, N1, N2, N2, N1⟩ : Grid) P1 [M01, M02] rfl rfl
    (collectScores_cons v110221221 (collectScores_cons t101221221 collectScores_nil)) rfl

theorem v100221201 : readBoardAux P2 5 (⟨N1, N0, N0, N2, N2, N1, N2, N0, N1⟩ : Grid) P2 = some (ZP, some M02) :=
  readBoardAux_step P2 4 (⟨N1, N0, N0, N2, N2, N1, N2, N0, N1⟩ : Grid) P2 [M01, M02, M21] rfl rfl
    (collectScores_cons v120221201 (collectScores_cons t102221201 (collectScores_cons v100221221 collectScores_nil))) rfl

theorem v100221200 : readBoardAux P2 6 (⟨N1, N0, N0, N2, N2, N1, N2, N0, N0⟩ : Grid) P1 = some (ZM, some M02) :=
  readBoardAux_step P2 5 (⟨N1, N0, N0, N2, N2, N1, N2, N0, N0⟩ : Grid) P1 [M01, M02, M21, M22] rfl rfl
    (collectScores_cons v110221200 (collectScores_cons v101221200 (collectScores_cons v100221210 (collectScores_cons v100221201 collectScores_nil)))) rfl

theorem v100221122 : readBoardAux P2 4 (⟨N1, N0, N0, N2, N2, N1, N1, N2, N2⟩ : Grid) P1 = some (Z0, some M01) :=
  readBoardAux_step P2 3 (⟨N1, N0, N0, N2, N2, N1, N1, N2, N2⟩ : Grid) P1 [M01, M02] rfl rfl
    (collectScores_cons v110221122 (collectScores_cons v101221122 collectScores_nil)) rfl

theorem v100221120 : readBoardAux P2 5 (⟨N1, N0, N0, N2, N2, N1, N1, N2, N0⟩ : Grid) P2 = some (ZP, some M01) :=
  readBoardAux_step P2 4 (⟨N1, N0, N0, N2, N2, N1, N1, N2, N0⟩ : Grid) P2 [M01, M02, M22] rfl rfl
    (collectScores_cons t120221120 (collectScores_cons v102221120 (collectScores_cons v100221122 collectScores_nil))) rfl

theorem v100221021 : readBoardAux P2 5 (⟨N1, N0, N0, N2, N2, N1, N0, N2, N1⟩ : Grid) P2 = some (ZP, some M01) :=
  readBoardAux_step P2 4 (⟨N1, N0, N0, N2, N2, N1, N0, N2, N1⟩ : Grid) P2 [M01, M02, M20] rfl rfl
    (collectScores_cons t120221021 (collectScores_cons v102221021 (collectScores_cons v100221221 collectScores_nil))) rfl

theorem v100221020 : readBoardAux P2 6 (⟨N1, N0, N0, N2, N2, N1, N0, N2, N0⟩ : Grid) P1 = some (Z0, some M01) :=
  readBoardAux_step P2 5 (⟨N1, N0, N0, N2, N2, N1, N0, N2, N0⟩ : Grid) P1 [M01, M02, M20, M22] rfl rfl
    (collectScores_cons v110221020 (collectScores_cons v101221020 (collectScores_cons v100221120 (collectScores_cons v100221021 collectScores_nil)))) rfl

theorem v100221102 : readBoardAux P2 5 (⟨N1, N0, N0, N2, N2, N1, N1, N0, N2⟩ : Grid) P2 = some (Z0, some M01) :=
  readBoardAux_step P2 4 (⟨N1, N0, N0, N2, N2, N1, N1, N0, N2⟩ : Grid) P2 [M01, M02, M21] rfl rfl
    (collectScores_cons v120221102 (collectScores_cons v102221102 (collectScores_cons v100221122 collectScores_nil))) rfl

theorem v100221012 : readBoardAux P2 5 (⟨N1, N0, N0, N2, N2, N1, N0, N1, N2⟩ : Grid) P2 = some (Z0, some M01) :=
  readBoardAux_step P2 4 (⟨N1, N0, N0, N2, N2, N1, N0, N1, N2⟩ : Grid) P2 [M01, M02, M20] rfl rfl
    (collectScores_cons v120221012 (collectScores_cons v102221012 (collectScores_cons v100221212 collectScores_nil))) rfl

theorem v100221002 : readBoardAux P2 6 (⟨N1, N0, N0, N2, N2, N1, N0, N0, N2⟩ : Grid) P1 = some (Z0, some M01) :=
  readBoardAux_step P2 5 (⟨N1, N0, N0, N2, N2, N1, N0, N0, N2⟩ : Grid) P1 [M01, M02, M20, M21] rfl rfl
    (collectScores_cons v110221002 (collectScores_cons v101221002 (collectScores_cons v100221102 (collectScores_cons v100221012 collectScores_nil)))) rfl

theorem v100221000 : readBoardAux P2 7 (⟨N1, N0, N0, N2, N2, N1, N0, N0, N0⟩ : Grid) P2 = some (Z0, some M01) :=
  readBoardAux_step P2 6 (⟨N1, N0, N0, N2, N2, N1, N0, N0, N0⟩ : Grid) P2 [M01, M02, M20, M21, M22] rfl rfl
    (collectScores_cons v120221000 (collectScores_cons v102221000 (collectScores_cons v100221200 (collectScores_cons v100221020 (collectScores_cons v100221002 collectScores_nil))))) rfl

theorem t100222100 : readBoardAux P2 6 (⟨N1, N0, N0, N2, N2, N2, N1, N0, N0⟩ : Grid) P1 = some (ZP, none) :=
  rfl

theorem t100222121 : readBoardAux P2 4 (⟨N1, N0, N0, N2, N2, N2, N1, N2, N1⟩ : Grid) P1 = some (ZP, none) :=
  rfl

theorem v100220121 : readBoardAux P2 5 (⟨N1, N0, N0, N2, N2, N0, N1, N2, N1⟩ : Grid) P2 = some (ZP, some M01) :=
  readBoardAux_step P2 4 (⟨N1, N0, N0, N2, N2, N0, N1, N2, N1⟩ : Grid) P2 [M01, M02, M12] rfl rfl
    (collectScores_cons t120220121 (collectScores_cons v102220121 (collectScores_cons t100222121 collectScores_nil))) rfl

theorem v100220120 : readBoardAux P2 6 (⟨N1, N0, N0, N2, N2, N0, N1, N2, N0⟩ : Grid) P1 = some (ZP, some M01) :=
  readBoardAux_step P2 5 (⟨N1, N0, N0, N2, N2, N0, N1, N2, N0⟩ : Grid) P1 [M01, M02, M12, M22] rfl rfl
    (collectScores_cons v110220120 (collectScores_cons v101220120 (collectScores_cons v100221120 (collectScores_cons v100220121 collectScores_nil)))) rfl

theorem t100222112 : readBoardAux P2 4 (⟨N1, N0, N0, N2, N2, N2, N1, N1, N2⟩ : Grid) P1 = some (ZP, none) :=
  rfl

theorem v100220112 : readBoardAux P2 5 (⟨N1, N0, N0, N2, N2, N0, N1, N1, N2⟩ : Grid) P2 = some (ZP, some M12) :=
  readBoardAux_step P2 4 (⟨N1, N0, N0, N2, N2, N0, N1, N1, N2⟩ : Grid) P2 [M01, M02, M12] rfl rfl
    (collectScores_cons v120220112 (collectScores_cons v102220112 (collectScores_cons t100222112 collectScores_nil))) rfl

theorem v100220102 : readBoardAux P2 6 (⟨N1, N0, N0, N2, N2, N0, N1, N0, N2⟩ : Grid) P1 = some (Z0, some M12) :=
  readBoardAux_step P2 5 (⟨N1, N0, N0, N2, N2, N0, N1, N0, N2⟩ : Grid) P1 [M01, M02, M12, M21] rfl rfl
    (collectScores_cons v110220102 (collectScores_cons v101220102 (collectScores_cons v100221102 (collectScores_cons v100220112 collectScores_nil)))) rfl

theorem v100220100 : readBoardAux P2 7 (⟨N1, N0, N0, N2, N2, N0, N1, N0, N0⟩ : Grid) P2 = some (ZP, some M01) :=
  readBoardAux_step P2 6 (⟨N1, N0, N0, N2, N2, N0, N1, N0, N0⟩ : Grid) P2 [M01, M02, M12, M21, M22] rfl rfl
    (collectScores_cons v120220100 (collectScores_cons v102220100 (collectScores_cons t100222100 (collectScores_cons v100220120 (collectScores_cons v100220102 collectScores_nil))))) rfl

theorem t100222010 : readBoardAux P2 6 (⟨N1, N0, N0, N2, N2, N2, N0, N1, N0⟩ : Grid) P1 = some (ZP, none) :=
  rfl

theorem t100222211 : readBoardAux P2 4 (⟨N1, N0, N0, N2, N2, N2, N2, N1, N1⟩ : Grid) P1 = some (ZP, none) :=
  rfl

theorem v100220211 : readBoardAux P2 5 (⟨N1, N0, N0, N2, N2, N0, N2, N1, N1⟩ : Grid) P2 = some (ZP, some M01) :=
  readBoardAux_step P2 4 (⟨N1, N0, N0, N2, N2, N0, N2, N1, N1⟩ : Grid) P2 [M01, M02, M12] rfl rfl
    (collectScores_cons v120220211 (collectScores_cons t102220211 (collectScores_cons t100222211 collectScores_nil))) rfl

theorem v100220210 : readBoardAux P2 6 (⟨N1, N0, N0, N2, N2, N0, N2, N1, N0⟩ : Grid) P1 = some (ZP, some M01) :=
  readBoardAux_step P2 5 (⟨N1, N0, N0, N2, N2, N0, N2, N1, N0⟩ : Grid) P1 [M01, M02, M12, M22] rfl rfl
    (collectScores_cons v110220210 (collectScores_cons v101220210 (collectScores_cons v100221210 (collectScores_cons v100220211 collectScores_nil)))) rfl

theorem v100220012 : readBoardAux P2 6 (⟨N1, N0, N0, N2, N2, N0, N0, N1, N2⟩ : Grid) P1 = some (Z0, some M12) :=
  readBoardAux_step P2 5 (⟨N1, N0, N0, N2, N2, N0, N0, N1, N2⟩ : Grid) P1 [M01, M02, M12, M20] rfl rfl
    (collectScores_cons v110220012 (collectScores_cons v101220012 (collectScores_cons v100221012 (collectScores_cons v100220112 collectScores_nil)))) rfl

theorem v100220010 : readBoardAux P2 7 (⟨N1, N0, N0, N2, N2, N0, N0, N1, N0⟩ : Grid) P2 = some (ZP, some M02) :=
  readBoardAux_step P2 6 (⟨N1, N0, N0, N2, N2, N0, N0, N1, N0⟩ : Grid) P2 [M01, M02, M12, M20, M22] rfl rfl
    (collectScores_cons v120220010 (collectScores_cons v102220010 (collectScores_cons t100222010 (collectScores_cons v100220210 (collectScores_cons v100220012 collectScores_nil))))) rfl

theorem t100222001 : readBoardAux P2 6 (⟨N1, N0, N0, N2, N2, N2, N0, N0, N1⟩ : Grid) P1 = some (ZP, none) :=
  rfl

theorem v100220201 : readBoardAux P2 6 (⟨N1, N0, N0, N2, N2, N0, N2, N0, N1⟩ : Grid) P1 = some (ZP, some M01) :=
  readBoardAux_step P2 5 (⟨N1, N0, N0, N2, N2, N0, N2, N0, N1⟩ : Grid) P1 [M01, M02, M12, M21] rfl rfl
    (collectScores_cons v110220201 (collectScores_cons v101220201 (collectScores_cons v100221201 (collectScores_cons v100220211 collectScores_nil)))) rfl

theorem v100220021 : readBoardAux P2 6 (⟨N1, N0, N0, N2, N2, N0, N0, N2, N1⟩ : Grid) P1 = some (ZP, some M01) :=
  readBoardAux_step P2 5 (⟨N1, N0, N0, N2, N2, N0, N0, N2, N1⟩ : Grid) P1 [M01, M02, M12, M20] rfl rfl
    (collectScores_cons v110220021 (collectScores_cons v101220021 (collectScores_cons v100221021 (collectScores_cons v100220121 collectScores_nil)))) rfl

theorem v100220001 : readBoardAux P2 7 (⟨N1, N0, N0, N2, N2, N0, N0, N0, N1⟩ : Grid) P2 = some (ZP, some M01) :=
  readBoardAux_step P2 6 (⟨N1, N0, N0, N2, N2, N0, N0, N0, N1⟩ : Grid) P2 [M01, M02, M12, M20, M21] rfl rfl
    (collectScores_cons v120220001 (collectScores_cons v102220001 (collectScores_cons t100222001 (collectScores_cons v100220201 (collectScores_cons v100220021 collectScores_nil))))) rfl

theorem v100220000 : readBoardAux P2 8 (⟨N1, N0, N0, N2, N2, N0, N0, N0, N0⟩ : Grid) P1 = some (Z0, some M12) :=
  readBoardAux_step P2 7 (⟨N1, N0, N0, N2, N2, N0, N0, N0, N0⟩ : Grid) P1 [M01, M02, M12, M20, M21, M22] rfl rfl
    (collectScores_cons v110220000 (collectScores_cons v101220000 (collectScores_cons v100221000 (collectScores_cons v100220100 (collectScores_cons v100220010 (collectScores_cons v100220001 collectScores_nil)))))) rfl

theorem t111202200 : readBoardAux P2 5 (⟨N1, N1, N1, N2, N0, N2, N2, N0, N0⟩ : Grid) P2 = some (ZM, none) :=
  rfl

theorem t111212220 : readBoardAux P2 3 (⟨N1, N1, N1, N2, N1, N2, N2, N2, N0⟩ : Grid) P2 = some (ZM, none) :=
  rfl

theorem t110212221 : readBoardAux P2 3 (⟨N1, N1, N0, N2, N1, N2, N2, N2, N1⟩ : Grid) P2 = some (ZM, none) :=
  rfl

theorem v110212220 : readBoardAux P2 4 (⟨N1, N1, N0, N2, N1, N2, N2, N2, N0⟩ : Grid) P1 = some (ZM, some M02) :=
  readBoardAux_step P2 3 (⟨N1, N1, N0, N2, N1, N2, N2, N2, N0⟩ : Grid) P1 [M02, M22] rfl rfl
    (collectScores_cons t111212220 (collectScores_cons t110212221 collectScores_nil)) rfl

theorem t111212202 : readBoardAux P2 3 (⟨N1, N1, N1, N2, N1, N2, N2, N0, N2⟩ : Grid) P2 = some (ZM, none) :=
  rfl

theorem t110212212 : readBoardAux P2 3 (⟨N1, N1, N0, N2, N1, N2, N2, N1, N2⟩ : Grid) P2 = some (ZM, none) :=
  rfl

theorem v110212202 : readBoardAux P2 4 (⟨N1, N1, N0, N2, N1, N2, N2, N0, N2⟩ : Grid) P1 = some (ZM, some M02) :=
  readBoardAux_step P2 3 (⟨N1, N1, N0, N2, N1, N2, N2, N0, N2⟩ : Grid) P1 [M02, M21] rfl rfl
    (collectScores_cons t111212202 (collectScores_cons t110212212 collectScores_nil)) rfl

theorem v110212200 : readBoardAux P2 5 (⟨N1, N1, N0, N2, N1, N2, N2, N0, N0⟩ : Grid) P2 = some (ZM, some M02) :=
  readBoardAux_step P2 4 (⟨N1, N1, N0, N2, N1, N2, N2, N0, N0⟩ : Grid) P2 [M02, M21, M22] rfl rfl
    (collectScores_cons v112212200 (collectScores_cons v110212220 (collectScores_cons v110212202 collectScores_nil))) rfl

theorem t111202212 : readBoardAux P2 3 (⟨N1, N1, N1, N2, N0, N2, N2, N1, N2⟩ : Grid) P2 = some (ZM, none) :=
  rfl

theorem v110202212 : readBoardAux P2 4 (⟨N1, N1, N0, N2, N0, N2, N2, N1, N2⟩ : Grid) P1 = some (ZM, some M02) :=
  readBoardAux_step P2 3 (⟨N1, N1, N0, N2, N0, N2, N2, N1, N2⟩ : Grid) P1 [M02, M11] rfl rfl
    (collectScores_cons t111202212 (collectScores_cons t110212212 collectScores_nil)) rfl

theorem v110202210 : readBoardAux P2 5 (⟨N1, N1, N0, N2, N0, N2, N2, N1, N0⟩ : Grid) P2 = some (ZP, some M11) :=
  readBoardAux_step P2 4 (⟨N1, N1, N0, N2, N0, N2, N2, N1, N0⟩ : Grid) P2 [M02, M11, M22] rfl rfl
    (collectScores_cons v112202210 (collectScores_cons t110222210 (collectScores_cons v110202212 collectScores_nil))) rfl

theorem t111202221 : readBoardAux P2 3 (⟨N1, N1, N1, N2, N0, N2, N2, N2, N1⟩ : Grid) P2 = some (ZM, none) :=
  rfl

theorem v110202221 : readBoardAux P2 4 (⟨N1, N1, N0, N2, N0, N2, N2, N2, N1⟩ : Grid) P1 = some (ZM, some M02) :=
  readBoardAux_step P2 3 (⟨N1, N1, N0, N2, N0, N2, N2, N2, N1⟩ : Grid) P1 [M02, M11] rfl rfl
    (collectScores_cons t111202221 (collectScores_cons t110212221 collectScores_nil)) rfl

theorem v110202201 : readBoardAux P2 5 (⟨N1, N1, N0, N2, N0, N2, N2, N0, N1⟩ : Grid) P2 = some (ZP, some M11) :=
  readBoardAux_step P2 4 (⟨N1, N1, N0, N2, N0, N2, N2, N0, N1⟩ : Grid) P2 [M02, M11, M21] rfl rfl
    (collectScores_cons v112202201 (collectScores_cons t110222201 (collectScores_cons v110202221 collectScores_nil))) rfl

theorem v110202200 : readBoardAux P2 6 (⟨N1, N1, N0, N2, N0, N2, N2, N0, N0⟩ : Grid) P1 = some (ZM, some M02) :=
  readBoardAux_step P2 5 (⟨N1, N1, N0, N2, N0, N2, N2, N0, N0⟩ : Grid) P1 [M02, M11, M21, M22] rfl rfl
    (collectScores_cons t111202200 (collectScores_cons v110212200 (collectScores_cons v110202210 (collectScores_cons v110202201 collectScores_nil)))) rfl

theorem t111202020 : readBoardAux P2 5 (⟨N1, N1, N1, N2, N0, N2, N0, N2, N0⟩ : Grid) P2 = some (ZM, none) :=
  rfl

theorem t111212022 : readBoardAux P2 3 (⟨N1, N1, N1, N2, N1, N2, N0, N2, N2⟩ : Grid) P2 = some (ZM, none) :=
  rfl

theorem v110212122 : readBoardAux P2 3 (⟨N1, N1, N0, N2, N1, N2, N1, N2, N2⟩ : Grid) P2 = some (ZP, some M02) :=
  readBoardAux_step P2 2 (⟨N1, N1, N0, N2, N1, N2, N1, N2, N2⟩ : Grid) P2 [M02] rfl rfl
    (collectScores_cons t112212122 collectScores_nil) rfl

theorem v110212022 : readBoardAux P2 4 (⟨N1, N1, N0, N2, N1, N2, N0, N2, N2⟩ : Grid) P1 = some (ZM, some M02) :=
  readBoardAux_step P2 3 (⟨N1, N1, N0, N2, N1, N2, N0, N2, N2⟩ : Grid) P1 [M02, M20] rfl rfl
    (collectScores_cons t111212022 (collectScores_cons v110212122 collectScores_nil)) rfl

theorem v110212020 : readBoardAux P2 5 (⟨N1, N1, N0, N2, N1, N2, N0, N2, N0⟩ : Grid) P2 = some (ZM, some M02) :=
  readBoardAux_step P2 4 (⟨N1, N1, N0, N2, N1, N2, N0, N2, N0⟩ : Grid) P2 [M02, M20, M22] rfl rfl
    (collectScores_cons v112212020 (collectScores_cons v110212220 (collectScores_cons v110212022 collectScores_nil))) rfl

theorem t111202122 : readBoardAux P2 3 (⟨N1, N1, N1, N2, N0, N2, N1, N2, N2⟩ : Grid) P2 = some (ZM, none) :=
  rfl

theorem v110202122 : readBoardAux P2 4 (⟨N1, N1, N0, N2, N0, N2, N1, N2, N2⟩ : Grid) P1 = some (ZM, some M02) :=
  readBoardAux_step P2 3 (⟨N1, N1, N0, N2, N0, N2, N1, N2, N2⟩ : Grid) P1 [M02, M11] rfl rfl
    (collectScores_cons t111202122 (collectScores_cons v110212122 collectScores_nil)) rfl

theorem v110202120 : readBoardAux P2 5 (⟨N1, N1, N0, N2, N0, N2, N1, N2, N0⟩ : Grid) P2 = some (ZP, some M02) :=
  readBoardAux_step P2 4 (⟨N1, N1, N0, N2, N0, N2, N1, N2, N0⟩ : Grid) P2 [M02, M11, M22] rfl rfl
    (collectScores_cons v112202120 (collectScores_cons t110222120 (collectScores_cons v110202122 collectScores_nil))) rfl

theorem v110202021 : readBoardAux P2 5 (⟨N1, N1, N0, N2, N0, N2, N0, N2, N1⟩ : Grid) P2 = some (ZP, some M11) :=
  readBoardAux_step P2 4 (⟨N1, N1, N0, N2, N0, N2, N0, N2, N1⟩ : Grid) P2 [M02, M11, M20] rfl rfl
    (collectScores_cons v112202021 (collectScores_cons t110222021 (collectScores_cons v110202221 collectScores_nil))) rfl

theorem v110202020 : readBoardAux P2 6 (⟨N1, N1, N0, N2, N0, N2, N0, N2, N0⟩ : Grid) P1 = some (ZM, some M02) :=
  readBoardAux_step P2 5 (⟨N1, N1, N0, N2, N0, N2, N0, N2, N0⟩ : Grid) P1 [M02, M11, M20, M22] rfl rfl
    (collectScores_cons t111202020 (collectScores_cons v110212020 (collectScores_cons v110202120 (collectScores_cons v110202021 collectScores_nil)))) rfl

theorem t111202002 : readBoardAux P2 5 (⟨N1, N1, N1, N2, N0, N2, N0, N0, N2⟩ : Grid) P2 = some (ZM, none) :=
  rfl

theorem v110212002 : readBoardAux P2 5 (⟨N1, N1, N0, N2, N1, N2, N0, N0, N2⟩ : Grid) P2 = some (ZP, some M02) :=
  readBoardAux_step P2 4 (⟨N1, N1, N0, N2, N1, N2, N0, N0, N2⟩ : Grid) P2 [M02, M20, M21] rfl rfl
    (collectScores_cons t112212002 (collectScores_cons v110212202 (collectScores_cons v110212022 collectScores_nil))) rfl

theorem v110202102 : readBoardAux P2 5 (⟨N1, N1, N0, N2, N0, N2, N1, N0, N2⟩ : Grid) P2 = some (ZP, some M02) :=
  readBoardAux_step P2 4 (⟨N1, N1, N0, N2, N0, N2, N1, N0, N2⟩ : Grid) P2 [M02, M11, M21] rfl rfl
    (collectScores_cons t112202102 (collectScores_cons t110222102 (collectScores_cons v110202122 collectScores_nil))) rfl

theorem v110202012 : readBoardAux P2 5 (⟨N1, N1, N0, N2, N0, N2, N0, N1, N2⟩ : Grid) P2 = some (ZP, some M02) :=
  readBoardAux_step P2 4 (⟨N1, N1, N0, N2, N0, N2, N0, N1, N2⟩ : Grid) P2 [M02, M11, M20] rfl rfl
    (collectScores_cons t112202012 (collectScores_cons t110222012 (collectScores_cons v110202212 collectScores_nil))) rfl

theorem v110202002 : readBoardAux P2 6 (⟨N1, N1, N0, N2, N0, N2, N0, N0, N2⟩ : Grid) P1 = some (ZM, some M02) :=
  readBoardAux_step P2 5 (⟨N1, N1, N0, N2, N0, N2, N0, N0, N2⟩ : Grid) P1 [M02, M11, M20, M21] rfl rfl
    (collectScores_cons t111202002 (collectScores_cons v110212002 (collectScores_cons v110202102 (collectScores_cons v110202012 collectScores_nil)))) rfl

theorem v110202000 : readBoardAux P2 7 (⟨N1, N1, N0, N2, N0, N2, N0, N0, N0⟩ : Grid) P2 = some (ZP, some M02) :=
  readBoardAux_step P2 6 (⟨N1, N1, N0, N2, N0, N2, N0, N0, N0⟩ : Grid) P2 [M02, M11, M20, M21, M22] rfl rfl
    (collectScores_cons v112202000 (collectScores_cons t110222000 (collectScores_cons v110202200 (collectScores_cons v110202020 (collectScores_cons v110202002 collectScores_nil))))) rfl

theorem t101212221 : readBoardAux P2 3 (⟨N1, N0, N1, N2, N1, N2, N2, N2, N1⟩ : Grid) P2 = some (ZM, none) :=
  rfl

theorem v101212220 : readBoardAux P2 4 (⟨N1, N0, N1, N2, N1, N2, N2, N2, N0⟩ : Grid) P1 = some (ZM, some M01) :=
  readBoardAux_step P2 3 (⟨N1, N0, N1, N2, N1, N2, N2, N2, N0⟩ : Grid) P1 [M01, M22] rfl rfl
    (collectScores_cons t111212220 (collectScores_cons t101212221 collectScores_nil)) rfl

theorem v101212212 : readBoardAux P2 3 (⟨N1, N0, N1, N2, N1, N2, N2, N1, N2⟩ : Grid) P2 = some (Z0, some M01) :=
  readBoardAux_step P2 2 (⟨N1, N0, N1, N2, N1, N2, N2, N1, N2⟩ : Grid) P2 [M01] rfl rfl
    (collectScores_cons t121212212 collectScores_nil) rfl

theorem v101212202 : readBoardAux P2 4 (⟨N1, N0, N1, N2, N1, N2, N2, N0, N2⟩ : Grid) P1 = some (ZM, some M01) :=
  readBoardAux_step P2 3 (⟨N1, N0, N1, N2, N1, N2, N2, N0, N2⟩ : Grid) P1 [M01, M21] rfl rfl
    (collectScores_cons t111212202 (collectScores_cons v101212212 collectScores_nil)) rfl

theorem v101212200 : readBoardAux P2 5 (⟨N1, N0, N1, N2, N1, N2, N2, N0, N0⟩ : Grid) P2 = some (ZM, some M01) :=
  readBoardAux_step P2 4 (⟨N1, N0, N1, N2, N1, N2, N2, N0, N0⟩ : Grid) P2 [M01, M21, M22] rfl rfl
    (collectScores_cons v121212200 (collectScores_cons v101212220 (collectScores_cons v101212202 collectScores_nil))) rfl

theorem v101202212 : readBoardAux P2 4 (⟨N1, N0, N1, N2, N0, N2, N2, N1, N2⟩ : Grid) P1 = some (ZM, some M01) :=
  readBoardAux_step P2 3 (⟨N1, N0, N1, N2, N0, N2, N2, N1, N2⟩ : Grid) P1 [M01, M11] rfl rfl
    (collectScores_cons t111202212 (collectScores_cons v101212212 collectScores_nil)) rfl

theorem v101202210 : readBoardAux P2 5 (⟨N1, N0, N1, N2, N0, N2, N2, N1, N0⟩ : Grid) P2 = some (ZP, some M11) :=
  readBoardAux_step P2 4 (⟨N1, N0, N1, N2, N0, N2, N2, N1, N0⟩ : Grid) P2 [M01, M11, M22] rfl rfl
    (collectScores_cons v121202210 (collectScores_cons t101222210 (collectScores_cons v101202212 collectScores_nil))) rfl

theorem v101202221 : readBoardAux P2 4 (⟨N1, N0, N1, N2, N0, N2, N2, N2, N1⟩ : Grid) P1 = some (ZM, some M01) :=
  readBoardAux_step P2 3 (⟨N1, N0, N1, N2, N0, N2, N2, N2, N1⟩ : Grid) P1 [M01, M11] rfl rfl
    (collectScores_cons t111202221 (collectScores_cons t101212221 collectScores_nil)) rfl

theorem v101202201 : readBoardAux P2 5 (⟨N1, N0, N1, N2, N0, N2, N2, N0, N1⟩ : Grid) P2 = some (ZP, some M11) :=
  readBoardAux_step P2 4 (⟨N1, N0, N1, N2, N0, N2, N2, N0, N1⟩ : Grid) P2 [M01, M11, M21] rfl rfl
    (collectScores_cons v121202201 (collectScores_cons t101222201 (collectScores_cons v101202221 collectScores_nil))) rfl

theorem v101202200 : readBoardAux P2 6 (⟨N1, N0, N1, N2, N0, N2, N2, N0, N0⟩ : Grid) P1 = some (ZM, some M01) :=
  readBoardAux_step P2 5 (⟨N1, N0, N1, N2, N0, N2, N2, N0, N0⟩ : Grid) P1 [M01, M11, M21, M22] rfl rfl
    (collectScores_cons t111202200 (collectScores_cons v101212200 (collectScores_cons v101202210 (collectScores_cons v101202201 collectScores_nil)))) rfl

theorem t101212122 : readBoardAux P2 3 (⟨N1, N0, N1, N2, N1, N2, N1, N2, N2⟩ : Grid) P2 = some (ZM, none) :=
  rfl

theorem v101212022 : readBoardAux P2 4 (⟨N1, N0, N1, N2, N1, N2, N0, N2, N2⟩ : Grid) P1 = some (ZM, some M01) :=
  readBoardAux_step P2 3 (⟨N1, N0, N1, N2, N1, N2, N0, N2, N2⟩ : Grid) P1 [M01, M20] rfl rfl
    (collectScores_cons t111212022 (collectScores_cons t101212122 collectScores_nil)) rfl

theorem v101212020 : readBoardAux P2 5 (⟨N1, N0, N1, N2, N1, N2, N0, N2, N0⟩ : Grid) P2 = some (ZM, some M01) :=
  readBoardAux_step P2 4 (⟨N1, N0, N1, N2, N1, N2, N0, N2, N0⟩ : Grid) P2 [M01, M20, M22] rfl rfl
    (collectScores_cons v121212020 (collectScores_cons v101212220 (collectScores_cons v101212022 collectScores_nil))) rfl

theorem v101202122 : readBoardAux P2 4 (⟨N1, N0, N1, N2, N0, N2, N1, N2, N2⟩ : Grid) P1 = some (ZM, some M01) :=
  readBoardAux_step P2 3 (⟨N1, N0, N1, N2, N0, N2, N1, N2, N2⟩ : Grid) P1 [M01, M11] rfl rfl
    (collectScores_cons t111202122 (collectScores_cons t101212122 collectScores_nil)) rfl

theorem v101202120 : readBoardAux P2 5 (⟨N1, N0, N1, N2, N0, N2, N1, N2, N0⟩ : Grid) P2 = some (ZP, some M11) :=
  readBoardAux_step P2 4 (⟨N1, N0, N1, N2, N0, N2, N1, N2, N0⟩ : Grid) P2 [M01, M11, M22] rfl rfl
    (collectScores_cons v121202120 (collectScores_cons t101222120 (collectScores_cons v101202122 collectScores_nil))) rfl

theorem v101202021 : readBoardAux P2 5 (⟨N1, N0, N1, N2, N0, N2, N0, N2, N1⟩ : Grid) P2 = some (ZP, some M11) :=
  readBoardAux_step P2 4 (⟨N1, N0, N1, N2, N0, N2, N0, N2, N1⟩ : Grid) P2 [M01, M11, M20] rfl rfl
    (collectScores_cons v121202021 (collectScores_cons t101222021 (collectScores_cons v101202221 collectScores_nil))) rfl

theorem v101202020 : readBoardAux P2 6 (⟨N1, N0, N1, N2, N0, N2, N0, N2, N0⟩ : Grid) P1 = some (ZM, some M01) :=
  readBoardAux_step P2 5 (⟨N1, N0, N1, N2, N0, N2, N0, N2, N0⟩ : Grid) P1 [M01, M11, M20, M22] rfl rfl
    (collectScores_cons t111202020 (collectScores_cons v101212020 (collectScores_cons v101202120 (collectScores_cons v101202021 collectScores_nil)))) rfl

theorem v101212002 : readBoardAux P2 5 (⟨N1, N0, N1, N2, N1, N2, N0, N0, N2⟩ : Grid) P2 = some (ZM, some M01) :=
  readBoardAux_step P2 4 (⟨N1, N0, N1, N2, N1, N2, N0, N0, N2⟩ : Grid) P2 [M01, M20, M21] rfl rfl
    (collectScores_cons v121212002 (collectScores_cons v101212202 (collectScores_cons v101212022 collectScores_nil))) rfl

theorem v101202102 : readBoardAux P2 5 (⟨N1, N0, N1, N2, N0, N2, N1, N0, N2⟩ : Grid) P2 = some (ZP, some M11) :=
  readBoardAux_step P2 4 (⟨N1, N0, N1, N2, N0, N2, N1, N0, N2⟩ : Grid) P2 [M01, M11, M21] rfl rfl
    (collectScores_cons v121202102 (collectScores_cons t101222102 (collectScores_cons v101202122 collectScores_nil))) rfl

theorem v101202012 : readBoardAux P2 5 (⟨N1, N0, N1, N2, N0, N2, N0, N1, N2⟩ : Grid) P2 = some (ZP, some M11) :=
  readBoardAux_step P2 4 (⟨N1, N0, N1, N2, N0, N2, N0, N1, N2⟩ : Grid) P2 [M01, M11, M20] rfl rfl
    (collectScores_cons v121202012 (collectScores_cons t101222012 (collectScores_cons v101202212 collectScores_nil))) rfl

theorem v101202002 : readBoardAux P2 6 (⟨N1, N0, N1, N2, N0, N2, N0, N0, N2⟩ : Grid) P1 = some (ZM, some M01) :=
  readBoardAux_step P2 5 (⟨N1, N0, N1, N2, N0, N2, N0, N0, N2⟩ : Grid) P1 [M01, M11, M20, M21] rfl rfl
    (collectScores_cons t111202002 (collectScores_cons v101212002 (collectScores_cons v101202102 (collectScores_cons v101202012 collectScores_nil)))) rfl

theorem v101202000 : readBoardAux P2 7 (⟨N1, N0, N1, N2, N0, N2, N0, N0, N0⟩ : Grid) P2 = some (ZP, some M11) :=
  readBoardAux_step P2 6 (⟨N1, N0, N1, N2, N0, N2, N0, N0, N0⟩ : Grid) P2 [M01, M11, M20, M21, M22] rfl rfl
    (collectScores_cons v121202000 (collectScores_cons t101222000 (collectScores_cons v101202200 (collectScores_cons v101202020 (collectScores_cons v101202002 collectScores_nil))))) rfl

theorem v100212212 : readBoardAux P2 4 (⟨N1, N0, N0, N2, N1, N2, N2, N1, N2⟩ : Grid) P1 = some (ZM, some M01) :=
  readBoardAux_step P2 3 (⟨N1, N0, N0, N2, N1, N2, N2, N1, N2⟩ : Grid) P1 [M01, M02] rfl rfl
    (collectScores_cons t110212212 (collectScores_cons v101212212 collectScores_nil)) rfl

theorem v100212210 : readBoardAux P2 5 (⟨N1, N0, N0, N2, N1, N2, N2, N1, N0⟩ : Grid) P2 = some (ZM, some M01) :=
  readBoardAux_step P2 4 (⟨N1, N0, N0, N2, N1, N2, N2, N1, N0⟩ : Grid) P2 [M01, M02, M22] rfl rfl
    (collectScores_cons v120212210 (collectScores_cons v102212210 (collectScores_cons v100212212 collectScores_nil))) rfl

theorem t100212201 : readBoardAux P2 5 (⟨N1, N0, N0, N2, N1, N2, N2, N0, N1⟩ : Grid) P2 = some (ZM, none) :=
  rfl

theorem v100212200 : readBoardAux P2 6 (⟨N1, N0, N0, N2, N1, N2, N2, N0, N0⟩ : Grid) P1 = some (ZM, some M01) :=
  readBoardAux_step P2 5 (⟨N1, N0, N0, N2, N1, N2, N2, N0, N0⟩ : Grid) P1 [M01, M02, M21, M22] rfl rfl
    (collectScores_cons v110212200 (collectScores_cons v101212200 (collectScores_cons v100212210 (collectScores_cons t100212201 collectScores_nil)))) rfl

theorem v100212122 : readBoardAux P2 4 (⟨N1, N0, N0, N2, N1, N2, N1, N2, N2⟩ : Grid) P1 = some (ZM, some M02) :=
  readBoardAux_step P2 3 (⟨N1, N0, N0, N2, N1, N2, N1, N2, N2⟩ : Grid) P1 [M01, M02] rfl rfl
    (collectScores_cons v110212122 (collectScores_cons t101212122 collectScores_nil)) rfl

theorem v100212120 : readBoardAux P2 5 (⟨N1, N0, N0, N2, N1, N2, N1, N2, N0⟩ : Grid) P2 = some (ZM, some M01) :=
  readBoardAux_step P2 4 (⟨N1, N0, N0, N2, N1, N2, N1, N2, N0⟩ : Grid) P2 [M01, M02, M22] rfl rfl
    (collectScores_cons v120212120 (collectScores_cons v102212120 (collectScores_cons v100212122 collectScores_nil))) rfl

theorem t100212021 : readBoardAux P2 5 (⟨N1, N0, N0, N2, N1, N2, N0, N2, N1⟩ : Grid) P2 = some (ZM, none) :=
  rfl

theorem v100212020 : readBoardAux P2 6 (⟨N1, N0, N0, N2, N1, N2, N0, N2, N0⟩ : Grid) P1 = some (ZM, some M01) :=
  readBoardAux_step P2 5 (⟨N1, N0, N0, N2, N1, N2, N0, N2, N0⟩ : Grid) P1 [M01, M02, M20, M22] rfl rfl
    (collectScores_cons v110212020 (collectScores_cons v101212020 (collectScores_cons v100212120 (collectScores_cons t100212021 collectScores_nil)))) rfl

theorem v100212102 : readBoardAux P2 5 (⟨N1, N0, N0, N2, N1, N2, N1, N0, N2⟩ : Grid) P2 = some (ZP, some M02) :=
  readBoardAux_step P2 4 (⟨N1, N0, N0, N2, N1, N2, N1, N0, N2⟩ : Grid) P2 [M01, M02, M21] rfl rfl
    (collectScores_cons v120212102 (collectScores_cons t102212102 (collectScores_cons v100212122 collectScores_nil))) rfl

theorem v100212012 : readBoardAux P2 5 (⟨N1, N0, N0, N2, N1, N2, N0, N1, N2⟩ : Grid) P2 = some (ZP, some M02) :=
  readBoardAux_step P2 4 (⟨N1, N0, N0, N2, N1, N2, N0, N1, N2⟩ : Grid) P2 [M01, M02, M20] rfl rfl
    (collectScores_cons v120212012 (collectScores_cons t102212012 (collectScores_cons v100212212 collectScores_nil))) rfl

theorem v100212002 : readBoardAux P2 6 (⟨N1, N0, N0, N2, N1, N2, N0, N0, N2⟩ : Grid) P1 = some (ZM, some M02) :=
  readBoardAux_step P2 5 (⟨N1, N0, N0, N2, N1, N2, N0, N0, N2⟩ : Grid) P1 [M01, M02, M20, M21] rfl rfl
    (collectScores_cons v110212002 (collectScores_cons v101212002 (collectScores_cons v100212102 (collectScores_cons v100212012 collectScores_nil)))) rfl

theorem v100212000 : readBoardAux P2 7 (⟨N1, N0, N0, N2, N1, N2, N0, N0, N0⟩ : Grid) P2 = some (ZM, some M01) :=
  readBoardAux_step P2 6 (⟨N1, N0, N0, N2, N1, N2, N0, N0, N0⟩ : Grid) P2 [M01, M02, M20, M21, M22] rfl rfl
    (collectScores_cons v120212000 (collectScores_cons v102212000 (collectScores_cons v100212200 (collectScores_cons v100212020 (collectScores_cons v100212002 collectScores_nil))))) rfl

theorem v100202121 : readBoardAux P2 5 (⟨N1, N0, N0, N2, N0, N2, N1, N2, N1⟩ : Grid) P2 = some (ZP, some M11) :=
  readBoardAux_step P2 4 (⟨N1, N0, N0, N2, N0, N2, N1, N2, N1⟩ : Grid) P2 [M01, M02, M11] rfl rfl
    (collectScores_cons v120202121 (collectScores_cons v102202121 (collectScores_cons t100222121 collectScores_nil))) rfl

theorem v100202120 : readBoardAux P2 6 (⟨N1, N0, N0, N2, N0, N2, N1, N2, N0⟩ : Grid) P1 = some (ZM, some M11) :=
  readBoardAux_step P2 5 (⟨N1, N0, N0, N2, N0, N2, N1, N2, N0⟩ : Grid) P1 [M01, M02, M11, M22] rfl rfl
    (collectScores_cons v110202120 (collectScores_cons v101202120 (collectScores_cons v100212120 (collectScores_cons v100202121 collectScores_nil)))) rfl

theorem v100202112 : readBoardAux P2 5 (⟨N1, N0, N0, N2, N0, N2, N1, N1, N2⟩ : Grid) P2 = some (ZP, some M01) :=
  readBoardAux_step P2 4 (⟨N1, N0, N0, N2, N0, N2, N1, N1, N2⟩ : Grid) P2 [M01, M02, M11] rfl rfl
    (collectScores_cons v120202112 (collectScores_cons t102202112 (collectScores_cons t100222112 collectScores_nil))) rfl

theorem v100202102 : readBoardAux P2 6 (⟨N1, N0, N0, N2, N0, N2, N1, N0, N2⟩ : Grid) P1 = some (ZP, some M01) :=
  readBoardAux_step P2 5 (⟨N1, N0, N0, N2, N0, N2, N1, N0, N2⟩ : Grid) P1 [M01, M02, M11, M21] rfl rfl
    (collectScores_cons v110202102 (collectScores_cons v101202102 (collectScores_cons v100212102 (collectScores_cons v100202112 collectScores_nil)))) rfl

theorem v100202100 : readBoardAux P2 7 (⟨N1, N0, N0, N2, N0, N2, N1, N0, N0⟩ : Grid) P2 = some (ZP, some M02) :=
  readBoardAux_step P2 6 (⟨N1, N0, N0, N2, N0, N2, N1, N0, N0⟩ : Grid) P2 [M01, M02, M11, M21, M22] rfl rfl
    (collectScores_cons v120202100 (collectScores_cons v102202100 (collectScores_cons t100222100 (collectScores_cons v100202120 (collectScores_cons v100202102 collectScores_nil))))) rfl

theorem v100202211 : readBoardAux P2 5 (⟨N1, N0, N0, N2, N0, N2, N2, N1, N1⟩ : Grid) P2 = some (ZP, some M11) :=
  readBoardAux_step P2 4 (⟨N1, N0, N0, N2, N0, N2, N2, N1, N1⟩ : Grid) P2 [M01, M02, M11] rfl rfl
    (collectScores_cons v120202211 (collectScores_cons v102202211 (collectScores_cons t100222211 collectScores_nil))) rfl

theorem v100202210 : readBoardAux P2 6 (⟨N1, N0, N0, N2, N0, N2, N2, N1, N0⟩ : Grid) P1 = some (ZM, some M11) :=
  readBoardAux_step P2 5 (⟨N1, N0, N0, N2, N0, N2, N2, N1, N0⟩ : Grid) P1 [M01, M02, M11, M22] rfl rfl
    (collectScores_cons v110202210 (collectScores_cons v101202210 (collectScores_cons v100212210 (collectScores_cons v100202211 collectScores_nil)))) rfl

theorem v100202012 : readBoardAux P2 6 (⟨N1, N0, N0, N2, N0, N2, N0, N1, N2⟩ : Grid) P1 = some (ZP, some M01) :=
  readBoardAux_step P2 5 (⟨N1, N0, N0, N2, N0, N2, N0, N1, N2⟩ : Grid) P1 [M01, M02, M11, M20] rfl rfl
    (collectScores_cons v110202012 (collectScores_cons v101202012 (collectScores_cons v100212012 (collectScores_cons v100202112 collectScores_nil)))) rfl

theorem v100202010 : readBoardAux P2 7 (⟨N1, N0, N0, N2, N0, N2, N0, N1, N0⟩ : Grid) P2 = some (ZP, some M02) :=
  readBoardAux_step P2 6 (⟨N1, N0, N0, N2, N0, N2, N0, N1, N0⟩ : Grid) P2 [M01, M02, M11, M20, M22] rfl rfl
    (collectScores_cons v120202010 (collectScores_cons v102202010 (collectScores_cons t100222010 (collectScores_cons v100202210 (collectScores_cons v100202012 collectScores_nil))))) rfl

theorem v100202201 : readBoardAux P2 6 (⟨N1, N0, N0, N2, N0, N2, N2, N0, N1⟩ : Grid) P1 = some (ZM, some M11) :=
  readBoardAux_step P2 5 (⟨N1, N0, N0, N2, N0, N2, N2, N0, N1⟩ : Grid) P1 [M01, M02, M11, M21] rfl rfl
    (collectScores_cons v110202201 (collectScores_cons v101202201 (collectScores_cons t100212201 (collectScores_cons v100202211 collectScores_nil)))) rfl

theorem v100202021 : readBoardAux P2 6 (⟨N1, N0, N0, N2, N0, N2, N0, N2, N1⟩ : Grid) P1 = some (ZM, some M11) :=
  readBoardAux_step P2 5 (⟨N1, N0, N0, N2, N0, N2, N0, N2, N1⟩ : Grid) P1 [M01, M02, M11, M20] rfl rfl
    (collectScores_cons v110202021 (collectScores_cons v101202021 (collectScores_cons t100212021 (collectScores_cons v100202121 collectScores_nil)))) rfl

theorem v100202001 : readBoardAux P2 7 (⟨N1, N0, N0, N2, N0, N2, N0, N0, N1⟩ : Grid) P2 = some (ZP, some M11) :=
  readBoardAux_step P2 6 (⟨N1, N0, N0, N2, N0, N2, N0, N0, N1⟩ : Grid) P2 [M01, M02, M11, M20, M21] rfl rfl
    (collectScores_cons v120202001 (collectScores_cons v102202001 (collectScores_cons t100222001 (collectScores_cons v100202201 (collectScores_cons v100202021 collectScores_nil))))) rfl

theorem v100202000 : readBoardAux P2 8 (⟨N1, N0, N0, N2, N0, N2, N0, N0, N0⟩ : Grid) P1 = some (ZM, some M11) :=
  readBoardAux_step P2 7 (⟨N1, N0, N0, N2, N0, N2, N0, N0, N0⟩ : Grid) P1 [M01, M02, M11, M20, M21, M22] rfl rfl
    (collectScores_cons v110202000 (collectScores_cons v101202000 (collectScores_cons v100212000 (collectScores_cons v100202100 (collectScores_cons v100202010 (collectScores_cons v100202001 collectScores_nil)))))) rfl

theorem t111200220 : readBoardAux P2 5 (⟨N1, N1, N1, N2, N0, N0, N2, N2, N0⟩ : Grid) P2 = some (ZM, none) :=
  rfl

theorem t110210222 : readBoardAux P2 4 (⟨N1, N1, N0, N2, N1, N0, N2, N2, N2⟩ : Grid) P1 = some (ZP, none) :=
  rfl

theorem v110210220 : readBoardAux P2 5 (⟨N1, N1, N0, N2, N1, N0, N2, N2, N0⟩ : Grid) P2 = some (ZP, some M22) :=
  readBoardAux_step P2 4 (⟨N1, N1, N0, N2, N1, N0, N2, N2, N0⟩ : Grid) P2 [M02, M12, M22] rfl rfl
    (collectScores_cons v112210220 (collectScores_cons v110212220 (collectScores_cons t110210222 collectScores_nil))) rfl

theorem t110201222 : readBoardAux P2 4 (⟨N1, N1, N0, N2, N0, N1, N2, N2, N2⟩ : Grid) P1 = some (ZP, none) :=
  rfl

theorem v110201220 : readBoardAux P2 5 (⟨N1, N1, N0, N2, N0, N1, N2, N2, N0⟩ : Grid) P2 = some (ZP, some M02) :=
  readBoardAux_step P2 4 (⟨N1, N1, N0, N2, N0, N1, N2, N2, N0⟩ : Grid) P2 [M02, M11, M22] rfl rfl
    (collectScores_cons v112201220 (collectScores_cons v110221220 (collectScores_cons t110201222 collectScores_nil))) rfl

theorem v110200221 : readBoardAux P2 5 (⟨N1, N1, N0, N2, N0, N0, N2, N2, N1⟩ : Grid) P2 = some (ZM, some M02) :=
  readBoardAux_step P2 4 (⟨N1, N1, N0, N2, N0, N0, N2, N2, N1⟩ : Grid) P2 [M02, M11, M12] rfl rfl
    (collectScores_cons v112200221 (collectScores_cons v110220221 (collectScores_cons v110202221 collectScores_nil))) rfl

theorem v110200220 : readBoardAux P2 6 (⟨N1, N1, N0, N2, N0, N0, N2, N2, N0⟩ : Grid) P1 = some (ZM, some M02) :=
  readBoardAux_step P2 5 (⟨N1, N1, N0, N2, N0, N0, N2, N2, N0⟩ : Grid) P1 [M02, M11, M12, M22] rfl rfl
    (collectScores_cons t111200220 (collectScores_cons v110210220 (collectScores_cons v110201220 (collectScores_cons v110200221 collectScores_nil)))) rfl

theorem t111200202 : readBoardAux P2 5 (⟨N1, N1, N1, N2, N0, N0, N2, N0, N2⟩ : Grid) P2 = some (ZM, none) :=
  rfl

theorem v110210202 : readBoardAux P2 5 (⟨N1, N1, N0, N2, N1, N0, N2, N0, N2⟩ : Grid) P2 = some (ZP, some M21) :=
  readBoardAux_step P2 4 (⟨N1, N1, N0, N2, N1, N0, N2, N0, N2⟩ : Grid) P2 [M02, M12, M21] rfl rfl
    (collectScores_cons v112210202 (collectScores_cons v110212202 (collectScores_cons t110210222 collectScores_nil))) rfl

theorem v110201202 : readBoardAux P2 5 (⟨N1, N1, N0, N2, N0, N1, N2, N0, N2⟩ : Grid) P2 = some (ZP, some M02) :=
  readBoardAux_step P2 4 (⟨N1, N1, N0, N2, N0, N1, N2, N0, N2⟩ : Grid) P2 [M02, M11, M21] rfl rfl
    (collectScores_cons v112201202 (collectScores_cons v110221202 (collectScores_cons t110201222 collectScores_nil))) rfl

theorem v110200212 : readBoardAux P2 5 (⟨N1, N1, N0, N2, N0, N0, N2, N1, N2⟩ : Grid) P2 = some (ZM, some M02) :=
  readBoardAux_step P2 4 (⟨N1, N1, N0, N2, N0, N0, N2, N1, N2⟩ : Grid) P2 [M02, M11, M12] rfl rfl
    (collectScores_cons v112200212 (collectScores_cons v110220212 (collectScores_cons v110202212 collectScores_nil))) rfl

theorem v110200202 : readBoardAux P2 6 (⟨N1, N1, N0, N2, N0, N0, N2, N0, N2⟩ : Grid) P1 = some (ZM, some M02) :=
  readBoardAux_step P2 5 (⟨N1, N1, N0, N2, N0, N0, N2, N0, N2⟩ : Grid) P1 [M02, M11, M12, M21] rfl rfl
    (collectScores_cons t111200202 (collectScores_cons v110210202 (collectScores_cons v110201202 (collectScores_cons v110200212 collectScores_nil)))) rfl

theorem v110200200 : readBoardAux P2 7 (⟨N1, N1, N0, N2, N0, N0, N2, N0, N0⟩ : Grid) P2 = some (ZM, some M02) :=
  readBoardAux_step P2 6 (⟨N1, N1, N0, N2, N0, N0, N2, N0, N0⟩ : Grid) P2 [M02, M11, M12, M21, M22] rfl rfl
    (collectScores_cons v112200200 (collectScores_cons v110220200 (collectScores_cons v110202200 (collectScores_cons v110200220 (collectScores_cons v110200202 collectScores_nil))))) rfl

theorem t101210222 : readBoardAux P2 4 (⟨N1, N0, N1, N2, N1, N0, N2, N2, N2⟩ : Grid) P1 = some (ZP, none) :=
  rfl

theorem v101210220 : readBoardAux P2 5 (⟨N1, N0, N1, N2, N1, N0, N2, N2, N0⟩ : Grid) P2 = some (ZP, some M22) :=
  readBoardAux_step P2 4 (⟨N1, N0, N1, N2, N1, N0, N2, N2, N0⟩ : Grid) P2 [M01, M12, M22] rfl rfl
    (collectScores_cons v121210220 (collectScores_cons v101212220 (collectScores_cons t101210222 collectScores_nil))) rfl

theorem t101201222 : readBoardAux P2 4 (⟨N1, N0, N1, N2, N0, N1, N2, N2, N2⟩ : Grid) P1 = some (ZP, none) :=
  rfl

theorem v101201220 : readBoardAux P2 5 (⟨N1, N0, N1, N2, N0, N1, N2, N2, N0⟩ : Grid) P2 = some (ZP, some M22) :=
  readBoardAux_step P2 4 (⟨N1, N0, N1, N2, N0, N1, N2, N2, N0⟩ : Grid) P2 [M01, M11, M22] rfl rfl
    (collectScores_cons v121201220 (collectScores_cons v101221220 (collectScores_cons t101201222 collectScores_nil))) rfl

theorem v101200221 : readBoardAux P2 5 (⟨N1, N0, N1, N2, N0, N0, N2, N2, N1⟩ : Grid) P2 = some (ZM, some M01) :=
  readBoardAux_step P2 4 (⟨N1, N0, N1, N2, N0, N0, N2, N2, N1⟩ : Grid) P2 [M01, M11, M12] rfl rfl
    (collectScores_cons v121200221 (collectScores_cons v101220221 (collectScores_cons v101202221 collectScores_nil))) rfl

theorem v101200220 : readBoardAux P2 6 (⟨N1, N0, N1, N2, N0, N0, N2, N2, N0⟩ : Grid) P1 = some (ZM, some M01) :=
  readBoardAux_step P2 5 (⟨N1, N0, N1, N2, N0, N0, N2, N2, N0⟩ : Grid) P1 [M01, M11, M12, M22] rfl rfl
    (collectScores_cons t111200220 (collectScores_cons v101210220 (collectScores_cons v101201220 (collectScores_cons v101200221 collectScores_nil)))) rfl

theorem v101210202 : readBoardAux P2 5 (⟨N1, N0, N1, N2, N1, N0, N2, N0, N2⟩ : Grid) P2 = some (ZP, some M21) :=
  readBoardAux_step P2 4 (⟨N1, N0, N1, N2, N1, N0, N2, N0, N2⟩ : Grid) P2 [M01, M12, M21] rfl rfl
    (collectScores_cons v121210202 (collectScores_cons v101212202 (collectScores_cons t101210222 collectScores_nil))) rfl

theorem v101201202 : readBoardAux P2 5 (⟨N1, N0, N1, N2, N0, N1, N2, N0, N2⟩ : Grid) P2 = some (ZP, some M21) :=
  readBoardAux_step P2 4 (⟨N1, N0, N1, N2, N0, N1, N2, N0, N2⟩ : Grid) P2 [M01, M11, M21] rfl rfl
    (collectScores_cons v121201202 (collectScores_cons v101221202 (collectScores_cons t101201222 collectScores_nil))) rfl

theorem v101200212 : readBoardAux P2 5 (⟨N1, N0, N1, N2, N0, N0, N2, N1, N2⟩ : Grid) P2 = some (Z0, some M01) :=
  readBoardAux_step P2 4 (⟨N1, N0, N1, N2, N0, N0, N2, N1, N2⟩ : Grid) P2 [M01, M11, M12] rfl rfl
    (collectScores_cons v121200212 (collectScores_cons v101220212 (collectScores_cons v101202212 collectScores_nil))) rfl

theorem v101200202 : readBoardAux P2 6 (⟨N1, N0, N1, N2, N0, N0, N2, N0, N2⟩ : Grid) P1 = some (ZM, some M01) :=
  readBoardAux_step P2 5 (⟨N1, N0, N1, N2, N0, N0, N2, N0, N2⟩ : Grid) P1 [M01, M11, M12, M21] rfl rfl
    (collectScores_cons t111200202 (collectScores_cons v101210202 (collectScores_cons v101201202 (collectScores_cons v101200212 collectScores_nil)))) rfl

theorem v101200200 : readBoardAux P2 7 (⟨N1, N0, N1, N2, N0, N0, N2, N0, N0⟩ : Grid) P2 = some (ZM, some M01) :=
  readBoardAux_step P2 6 (⟨N1, N0, N1, N2, N0, N0, N2, N0, N0⟩ : Grid) P2 [M01, M11, M12, M21, M22] rfl rfl
    (collectScores_cons v121200200 (collectScores_cons v101220200 (collectScores_cons v101202200 (collectScores_cons v101200220 (collectScores_cons v101200202 collectScores_nil))))) rfl

theorem t100211222 : readBoardAux P2 4 (⟨N1, N0, N0, N2, N1, N1, N2, N2, N2⟩ : Grid) P1 = some (ZP, none) :=
  rfl

theorem v100211220 : readBoardAux P2 5 (⟨N1, N0, N0, N2, N1, N1, N2, N2, N0⟩ : Grid) P2 = some (ZP, some M22) :=
  readBoardAux_step P2 4 (⟨N1, N0, N0, N2, N1, N1, N2, N2, N0⟩ : Grid) P2 [M01, M02, M22] rfl rfl
    (collectScores_cons v120211220 (collectScores_cons v102211220 (collectScores_cons t100211222 collectScores_nil))) rfl

theorem t100210221 : readBoardAux P2 5 (⟨N1, N0, N0, N2, N1, N0, N2, N2, N1⟩ : Grid) P2 = some (ZM, none) :=
  rfl

theorem v100210220 : readBoardAux P2 6 (⟨N1, N0, N0, N2, N1, N0, N2, N2, N0⟩ : Grid) P1 = some (ZM, some M22) :=
  readBoardAux_step P2 5 (⟨N1, N0, N0, N2, N1, N0, N2, N2, N0⟩ : Grid) P1 [M01, M02, M12, M22] rfl rfl
    (collectScores_cons v110210220 (collectScores_cons v101210220 (collectScores_cons v100211220 (collectScores_cons t100210221 collectScores_nil)))) rfl

theorem v100211202 : readBoardAux P2 5 (⟨N1, N0, N0, N2, N1, N1, N2, N0, N2⟩ : Grid) P2 = some (ZP, some M21) :=
  readBoardAux_step P2 4 (⟨N1, N0, N0, N2, N1, N1, N2, N0, N2⟩ : Grid) P2 [M01, M02, M21] rfl rfl
    (collectScores_cons v120211202 (collectScores_cons v102211202 (collectScores_cons t100211222 collectScores_nil))) rfl

theorem v100210212 : readBoardAux P2 5 (⟨N1, N0, N0, N2, N1, N0, N2, N1, N2⟩ : Grid) P2 = some (Z0, some M01) :=
  readBoardAux_step P2 4 (⟨N1, N0, N0, N2, N1, N0, N2, N1, N2⟩ : Grid) P2 [M01, M02, M12] rfl rfl
    (collectScores_cons v120210212 (collectScores_cons v102210212 (collectScores_cons v100212212 collectScores_nil))) rfl

theorem v100210202 : readBoardAux P2 6 (⟨N1, N0, N0, N2, N1, N0, N2, N0, N2⟩ : Grid) P1 = some (Z0, some M21) :=
  readBoardAux_step P2 5 (⟨N1, N0, N0, N2, N1, N0, N2, N0, N2⟩ : Grid) P1 [M01, M02, M12, M21] rfl rfl
    (collectScores_cons v110210202 (collectScores_cons v101210202 (collectScores_cons v100211202 (collectScores_cons v100210212 collectScores_nil)))) rfl

theorem v100210200 : readBoardAux P2 7 (⟨N1, N0, N0, N2, N1, N0, N2, N0, N0⟩ : Grid) P2 = some (Z0, some M22) :=
  readBoardAux_step P2 6 (⟨N1, N0, N0, N2, N1, N0, N2, N0, N0⟩ : Grid) P2 [M01, M02, M12, M21, M22] rfl rfl
    (collectScores_cons v120210200 (collectScores_cons v102210200 (collectScores_cons v100212200 (collectScores_cons v100210220 (collectScores_cons v100210202 collectScores_nil))))) rfl

theorem v100201221 : readBoardAux P2 5 (⟨N1, N0, N0, N2, N0, N1, N2, N2, N1⟩ : Grid) P2 = some (ZM, some M01) :=
  readBoardAux_step P2 4 (⟨N1, N0, N0, N2, N0, N1, N2, N2, N1⟩ : Grid) P2 [M01, M02, M11] rfl rfl
    (collectScores_cons v120201221 (collectScores_cons v102201221 (collectScores_cons v100221221 collectScores_nil))) rfl

theorem v100201220 : readBoardAux P2 6 (⟨N1, N0, N0, N2, N0, N1, N2, N2, N0⟩ : Grid) P1 = some (ZM, some M22) :=
  readBoardAux_step P2 5 (⟨N1, N0, N0, N2, N0, N1, N2, N2, N0⟩ : Grid) P1 [M01, M02, M11, M22] rfl rfl
    (collectScores_cons v110201220 (collectScores_cons v101201220 (collectScores_cons v100211220 (collectScores_cons v100201221 collectScores_nil)))) rfl

theorem v100201212 : readBoardAux P2 5 (⟨N1, N0, N0, N2, N0, N1, N2, N1, N2⟩ : Grid) P2 = some (Z0, some M01) :=
  readBoardAux_step P2 4 (⟨N1, N0, N0, N2, N0, N1, N2, N1, N2⟩ : Grid) P2 [M01, M02, M11] rfl rfl
    (collectScores_cons v120201212 (collectScores_cons v102201212 (collectScores_cons v100221212 collectScores_nil))) rfl

theorem v100201202 : readBoardAux P2 6 (⟨N1, N0, N0, N2, N0, N1, N2, N0, N2⟩ : Grid) P1 = some (Z0, some M21) :=
  readBoardAux_step P2 5 (⟨N1, N0, N0, N2, N0, N1, N2, N0, N2⟩ : Grid) P1 [M01, M02, M11, M21] rfl rfl
    (collectScores_cons v110201202 (collectScores_cons v101201202 (collectScores_cons v100211202 (collectScores_cons v100201212 collectScores_nil)))) rfl

theorem v100201200 : readBoardAux P2 7 (⟨N1, N0, N0, N2, N0, N1, N2, N0, N0⟩ : Grid) P2 = some (Z0, some M02) :=
  readBoardAux_step P2 6 (⟨N1, N0, N0, N2, N0, N1, N2, N0, N0⟩ : Grid) P2 [M01, M02, M11, M21, M22] rfl rfl
    (collectScores_cons v120201200 (collectScores_cons v102201200 (collectScores_cons v100221200 (collectScores_cons v100201220 (collectScores_cons v100201202 collectScores_nil))))) rfl

theorem v100200212 : readBoardAux P2 6 (⟨N1, N0, N0, N2, N0, N0, N2, N1, N2⟩ : Grid) P1 = some (ZM, some M01) :=
  readBoardAux_step P2 5 (⟨N1, N0, N0, N2, N0, N0, N2, N1, N2⟩ : Grid) P1 [M01, M02, M11, M12] rfl rfl
    (collectScores_cons v110200212 (collectScores_cons v101200212 (collectScores_cons v100210212 (collectScores_cons v100201212 collectScores_nil)))) rfl

theorem v100200210 : readBoardAux P2 7 (⟨N1, N0, N0, N2, N0, N0, N2, N1, N0⟩ : Grid) P2 = some (ZP, some M11) :=
  readBoardAux_step P2 6 (⟨N1, N0, N0, N2, N0, N0, N2, N1, N0⟩ : Grid) P2 [M01, M02, M11, M12, M22] rfl rfl
    (collectScores_cons v120200210 (collectScores_cons v102200210 (collectScores_cons v100220210 (collectScores_cons v100202210 (collectScores_cons v100200212 collectScores_nil))))) rfl

theorem v100200221 : readBoardAux P2 6 (⟨N1, N0, N0, N2, N0, N0, N2, N2, N1⟩ : Grid) P1 = some (ZM, some M01) :=
  readBoardAux_step P2 5 (⟨N1, N0, N0, N2, N0, N0, N2, N2, N1⟩ : Grid) P1 [M01, M02, M11, M12] rfl rfl
    (collectScores_cons v110200221 (collectScores_cons v101200221 (collectScores_cons t100210221 (collectScores_cons v100201221 collectScores_nil)))) rfl

theorem v100200201 : readBoardAux P2 7 (⟨N1, N0, N0, N2, N0, N0, N2, N0, N1⟩ : Grid) P2 = some (ZP, some M11) :=
  readBoardAux_step P2 6 (⟨N1, N0, N0, N2, N0, N0, N2, N0, N1⟩ : Grid) P2 [M01, M02, M11, M12, M21] rfl rfl
    (collectScores_cons v120200201 (collectScores_cons v102200201 (collectScores_cons v100220201 (collectScores_cons v100202201 (collectScores_cons v100200221 collectScores_nil))))) rfl

theorem v100200200 : readBoardAux P2 8 (⟨N1, N0, N0, N2, N0, N0, N2, N0, N0⟩ : Grid) P1 = some (ZM, some M01) :=
  readBoardAux_step P2 7 (⟨N1, N0, N0, N2, N0, N0, N2, N0, N0⟩ : Grid) P1 [M01, M02, M11, M12, M21, M22] rfl rfl
    (collectScores_cons v110200200 (collectScores_cons v101200200 (collectScores_cons v100210200 (collectScores_cons v100201200 (collectScores_cons v100200210 (collectScores_cons v100200201 collectScores_nil)))))) rfl

theorem t111200022 : readBoardAux P2 5 (⟨N1, N1, N1, N2, N0, N0, N0, N2, N2⟩ : Grid) P2 = some (ZM, none) :=
  rfl

theorem v110210022 : readBoardAux P2 5 (⟨N1, N1, N0, N2, N1, N0, N0, N2, N2⟩ : Grid) P2 = some (ZP, some M02) :=
  readBoardAux_step P2 4 (⟨N1, N1, N0, N2, N1, N0, N0, N2, N2⟩ : Grid) P2 [M02, M12, M20] rfl rfl
    (collectScores_cons v112210022 (collectScores_cons v110212022 (collectScores_cons t110210222 collectScores_nil))) rfl

theorem v110201022 : readBoardAux P2 5 (⟨N1, N1, N0, N2, N0, N1, N0, N2, N2⟩ : Grid) P2 = some (ZP, some M20) :=
  readBoardAux_step P2 4 (⟨N1, N1, N0, N2, N0, N1, N0, N2, N2⟩ : Grid) P2 [M02, M11, M20] rfl rfl
    (collectScores_cons v112201022 (collectScores_cons v110221022 (collectScores_cons t110201222 collectScores_nil))) rfl

theorem v110200122 : readBoardAux P2 5 (⟨N1, N1, N0, N2, N0, N0, N1, N2, N2⟩ : Grid) P2 = some (Z0, some M02) :=
  readBoardAux_step P2 4 (⟨N1, N1, N0, N2, N0, N0, N1, N2, N2⟩ : Grid) P2 [M02, M11, M12] rfl rfl
    (collectScores_cons v112200122 (collectScores_cons v110220122 (collectScores_cons v110202122 collectScores_nil))) rfl

theorem v110200022 : readBoardAux P2 6 (⟨N1, N1, N0, N2, N0, N0, N0, N2, N2⟩ : Grid) P1 = some (ZM, some M02) :=
  readBoardAux_step P2 5 (⟨N1, N1, N0, N2, N0, N0, N0, N2, N2⟩ : Grid) P1 [M02, M11, M12, M20] rfl rfl
    (collectScores_cons t111200022 (collectScores_cons v110210022 (collectScores_cons v110201022 (collectScores_cons v110200122 collectScores_nil)))) rfl

theorem v110200020 : readBoardAux P2 7 (⟨N1, N1, N0, N2, N0, N0, N0, N2, N0⟩ : Grid) P2 = some (ZP, some M02) :=
  readBoardAux_step P2 6 (⟨N1, N1, N0, N2, N0, N0, N0, N2, N0⟩ : Grid) P2 [M02, M11, M12, M20, M22] rfl rfl
    (collectScores_cons v112200020 (collectScores_cons v110220020 (collectScores_cons v110202020 (collectScores_cons v110200220 (collectScores_cons v110200022 collectScores_nil))))) rfl

theorem v101210022 : readBoardAux P2 5 (⟨N1, N0, N1, N2, N1, N0, N0, N2, N2⟩ : Grid) P2 = some (ZP, some M20) :=
  readBoardAux_step P2 4 (⟨N1, N0, N1, N2, N1, N0, N0, N2, N2⟩ : Grid) P2 [M01, M12, M20] rfl rfl
    (collectScores_cons v121210022 (collectScores_cons v101212022 (collectScores_cons t101210222 collectScores_nil))) rfl

theorem v101201022 : readBoardAux P2 5 (⟨N1, N0, N1, N2, N0, N1, N0, N2, N2⟩ : Grid) P2 = some (ZP, some M01) :=
  readBoardAux_step P2 4 (⟨N1, N0, N1, N2, N0, N1, N0, N2, N2⟩ : Grid) P2 [M01, M11, M20] rfl rfl
    (collectScores_cons v121201022 (collectScores_cons v101221022 (collectScores_cons t101201222 collectScores_nil))) rfl

theorem v101200122 : readBoardAux P2 5 (⟨N1, N0, N1, N2, N0, N0, N1, N2, N2⟩ : Grid) P2 = some (ZM, some M01) :=
  readBoardAux_step P2 4 (⟨N1, N0, N1, N2, N0, N0, N1, N2, N2⟩ : Grid) P2 [M01, M11, M12] rfl rfl
    (collectScores_cons v121200122 (collectScores_cons v101220122 (collectScores_cons v101202122 collectScores_nil))) rfl

theorem v101200022 : readBoardAux P2 6 (⟨N1, N0, N1, N2, N0, N0, N0, N2, N2⟩ : Grid) P1 = some (ZM, some M01) :=
  readBoardAux_step P2 5 (⟨N1, N0, N1, N2, N0, N0, N0, N2, N2⟩ : Grid) P1 [M01, M11, M12, M20] rfl rfl
    (collectScores_cons t111200022 (collectScores_cons v101210022 (collectScores_cons v101201022 (collectScores_cons v101200122 collectScores_nil)))) rfl

theorem v101200020 : readBoardAux P2 7 (⟨N1, N0, N1, N2, N0, N0, N0, N2, N0⟩ : Grid) P2 = some (ZM, some M01) :=
  readBoardAux_step P2 6 (⟨N1, N0, N1, N2, N0, N0, N0, N2, N0⟩ : Grid) P2 [M01, M11, M12, M20, M22] rfl rfl
    (collectScores_cons v121200020 (collectScores_cons v101220020 (collectScores_cons v101202020 (collectScores_cons v101200220 (collectScores_cons v101200022 collectScores_nil))))) rfl

theorem v100211022 : readBoardAux P2 5 (⟨N1, N0, N0, N2, N1, N1, N0, N2, N2⟩ : Grid) P2 = some (ZP, some M20) :=
  readBoardAux_step P2 4 (⟨N1, N0, N0, N2, N1, N1, N0, N2, N2⟩ : Grid) P2 [M01, M02, M20] rfl rfl
    (collectScores_cons v120211022 (collectScores_cons v102211022 (collectScores_cons t100211222 collectScores_nil))) rfl

theorem v100210122 : readBoardAux P2 5 (⟨N1, N0, N0, N2, N1, N0, N1, N2, N2⟩ : Grid) P2 = some (Z0, some M02) :=
  readBoardAux_step P2 4 (⟨N1, N0, N0, N2, N1, N0, N1, N2, N2⟩ : Grid) P2 [M01, M02, M12] rfl rfl
    (collectScores_cons v120210122 (collectScores_cons v102210122 (collectScores_cons v100212122 collectScores_nil))) rfl

theorem v100210022 : readBoardAux P2 6 (⟨N1, N0, N0, N2, N1, N0, N0, N2, N2⟩ : Grid) P1 = some (Z0, some M20) :=
  readBoardAux_step P2 5 (⟨N1, N0, N0, N2, N1, N0, N0, N2, N2⟩ : Grid) P1 [M01, M02, M12, M20] rfl rfl
    (collectScores_cons v110210022 (collectScores_cons v101210022 (collectScores_cons v100211022 (collectScores_cons v100210122 collectScores_nil)))) rfl

theorem v100210020 : readBoardAux P2 7 (⟨N1, N0, N0, N2, N1, N0, N0, N2, N0⟩ : Grid) P2 = some (Z0, some M22) :=
  readBoardAux_step P2 6 (⟨N1, N0, N0, N2, N1, N0, N0, N2, N0⟩ : Grid) P2 [M01, M02, M12, M20, M22] rfl rfl
    (collectScores_cons v120210020 (collectScores_cons v102210020 (collectScores_cons v100212020 (collectScores_cons v100210220 (collectScores_cons v100210022 collectScores_nil))))) rfl

theorem v100201122 : readBoardAux P2 5 (⟨N1, N0, N0, N2, N0, N1, N1, N2, N2⟩ : Grid) P2 = some (Z0, some M01) :=
  readBoardAux_step P2 4 (⟨N1, N0, N0, N2, N0, N1, N1, N2, N2⟩ : Grid) P2 [M01, M02, M11] rfl rfl
    (collectScores_cons v120201122 (collectScores_cons v102201122 (collectScores_cons v100221122 collectScores_nil))) rfl

theorem v100201022 : readBoardAux P2 6 (⟨N1, N0, N0, N2, N0, N1, N0, N2, N2⟩ : Grid) P1 = some (Z0, some M20) :=
  readBoardAux_step P2 5 (⟨N1, N0, N0, N2, N0, N1, N0, N2, N2⟩ : Grid) P1 [M01, M02, M11, M20] rfl rfl
    (collectScores_cons v110201022 (collectScores_cons v101201022 (collectScores_cons v100211022 (collectScores_cons v100201122 collectScores_nil)))) rfl

theorem v100201020 : readBoardAux P2 7 (⟨N1, N0, N0, N2, N0, N1, N0, N2, N0⟩ : Grid) P2 = some (Z0, some M01) :=
  readBoardAux_step P2 6 (⟨N1, N0, N0, N2, N0, N1, N0, N2, N0⟩ : Grid) P2 [M01, M02, M11, M20, M22] rfl rfl
    (collectScores_cons v120201020 (collectScores_cons v102201020 (collectScores_cons v100221020 (collectScores_cons v100201220 (collectScores_cons v100201022 collectScores_nil))))) rfl

theorem v100200122 : readBoardAux P2 6 (⟨N1, N0, N0, N2, N0, N0, N1, N2, N2⟩ : Grid) P1 = some (ZM, some M02) :=
  readBoardAux_step P2 5 (⟨N1, N0, N0, N2, N0, N0, N1, N2, N2⟩ : Grid) P1 [M01, M02, M11, M12] rfl rfl
    (collectScores_cons v110200122 (collectScores_cons v101200122 (collectScores_cons v100210122 (collectScores_cons v100201122 collectScores_nil)))) rfl

theorem v100200120 : readBoardAux P2 7 (⟨N1, N0, N0, N2, N0, N0, N1, N2, N0⟩ : Grid) P2 = some (ZP, some M11) :=
  readBoardAux_step P2 6 (⟨N1, N0, N0, N2, N0, N0, N1, N2, N0⟩ : Grid) P2 [M01, M02, M11, M12, M22] rfl rfl
    (collectScores_cons v120200120 (collectScores_cons v102200120 (collectScores_cons v100220120 (collectScores_cons v100202120 (collectScores_cons v100200122 collectScores_nil))))) rfl

theorem v100200021 : readBoardAux P2 7 (⟨N1, N0, N0, N2, N0, N0, N0, N2, N1⟩ : Grid) P2 = some (ZP, some M11) :=
  readBoardAux_step P2 6 (⟨N1, N0, N0, N2, N0, N0, N0, N2, N1⟩ : Grid) P2 [M01, M02, M11, M12, M20] rfl rfl
    (collectScores_cons v120200021 (collectScores_cons v102200021 (collectScores_cons v100220021 (collectScores_cons v100202021 (collectScores_cons v100200221 collectScores_nil))))) rfl

theorem v100200020 : readBoardAux P2 8 (⟨N1, N0, N0, N2, N0, N0, N0, N2, N0⟩ : Grid) P1 = some (ZM, some M02) :=
  readBoardAux_step P2 7 (⟨N1, N0, N0, N2, N0, N0, N0, N2, N0⟩ : Grid) P1 [M01, M02, M11, M12, M20, M22] rfl rfl
    (collectScores_cons v110200020 (collectScores_cons v101200020 (collectScores_cons v100210020 (collectScores_cons v100201020 (collectScores_cons v100200120 (collectScores_cons v100200021 collectScores_nil)))))) rfl

theorem v110200002 : readBoardAux P2 7 (⟨N1, N1, N0, N2, N0, N0, N0, N0, N2⟩ : Grid) P2 = some (ZP, some M02) :=
  readBoardAux_step P2 6 (⟨N1, N1, N0, N2, N0, N0, N0, N0, N2⟩ : Grid) P2 [M02, M11, M12, M20, M21] rfl rfl
    (collectScores_cons v112200002 (collectScores_cons v110220002 (collectScores_cons v110202002 (collectScores_cons v110200202 (collectScores_cons v110200022 collectScores_nil))))) rfl

theorem v101200002 : readBoardAux P2 7 (⟨N1, N0, N1, N2, N0, N0, N0, N0, N2⟩ : Grid) P2 = some (Z0, some M01) :=
  readBoardAux_step P2 6 (⟨N1, N0, N1, N2, N0, N0, N0, N0, N2⟩ : Grid) P2 [M01, M11, M12, M20, M21] rfl rfl
    (collectScores_cons v121200002 (collectScores_cons v101220002 (collectScores_cons v101202002 (collectScores_cons v101200202 (collectScores_cons v101200022 collectScores_nil))))) rfl

theorem v100210002 : readBoardAux P2 7 (⟨N1, N0, N0, N2, N1, N0, N0, N0, N2⟩ : Grid) P2 = some (Z0, some M01) :=
  readBoardAux_step P2 6 (⟨N1, N0, N0, N2, N1, N0, N0, N0, N2⟩ : Grid) P2 [M01, M02, M12, M20, M21] rfl rfl
    (collectScores_cons v120210002 (collectScores_cons v102210002 (collectScores_cons v100212002 (collectScores_cons v100210202 (collectScores_cons v100210022 collectScores_nil))))) rfl

theorem v100201002 : readBoardAux P2 7 (⟨N1, N0, N0, N2, N0, N1, N0, N0, N2⟩ : Grid) P2 = some (Z0, some M01) :=
  readBoardAux_step P2 6 (⟨N1, N0, N0, N2, N0, N1, N0, N0, N2⟩ : Grid) P2 [M01, M02, M11, M20, M21] rfl rfl
    (collectScores_cons v120201002 (collectScores_cons v102201002 (collectScores_cons v100221002 (collectScores_cons v100201202 (collectScores_cons v100201022 collectScores_nil))))) rfl

theorem v100200102 : readBoardAux P2 7 (⟨N1, N0, N0, N2, N0, N0, N1, N0, N2⟩ : Grid) P2 = some (ZP, some M12) :=
  readBoardAux_step P2 6 (⟨N1, N0, N0, N2, N0, N0, N1, N0, N2⟩ : Grid) P2 [M01, M02, M11, M12, M21] rfl rfl
    (collectScores_cons v120200102 (collectScores_cons v102200102 (collectScores_cons v100220102 (collectScores_cons v100202102 (collectScores_cons v100200122 collectScores_nil))))) rfl

theorem v100200012 : readBoardAux P2 7 (⟨N1, N0, N0, N2, N0, N0, N0, N1, N2⟩ : Grid) P2 = some (ZP, some M12) :=
  readBoardAux_step P2 6 (⟨N1, N0, N0, N2, N0, N0, N0, N1, N2⟩ : Grid) P2 [M01, M02, M11, M12, M20] rfl rfl
    (collectScores_cons v120200012 (collectScores_cons v102200012 (collectScores_cons v100220012 (collectScores_cons v100202012 (collectScores_cons v100200212 collectScores_nil))))) rfl

theorem v100200002 : readBoardAux P2 8 (⟨N1, N0, N0, N2, N0, N0, N0, N0, N2⟩ : Grid) P1 = some (Z0, some M02) :=
  readBoardAux_step P2 7 (⟨N1, N0, N0, N2, N0, N0, N0, N0, N2⟩ : Grid) P1 [M01, M02, M11, M12, M20, M21] rfl rfl
    (collectScores_cons v110200002 (collectScores_cons v101200002 (collectScores_cons v100210002 (collectScores_cons v100201002 (collectScores_cons v100200102 (collectScores_cons v100200012 collectScores_nil)))))) rfl

theorem v100200000 : readBoardAux P2 9 (⟨N1, N0, N0, N2, N0, N0, N0, N0, N0⟩ : Grid) P2 = some (Z0, some M01) :=
  readBoardAux_step P2 8 (⟨N1, N0, N0, N2, N0, N0, N0, N0, N0⟩ : Grid) P2 [M01, M02, M11, M12, M20, M21, M22] rfl rfl
    (collectScores_cons v120200000 (collectScores_cons v102200000 (collectScores_cons v100220000 (collectScores_cons v100202000 (collectScores_cons v100200200 (collectScores_cons v100200020 (collectScores_cons v100200002 collectScores_nil))))))) rfl

theorem t011222000 : readBoardAux P2 6 (⟨N0, N1, N1, N2, N2, N2, N0, N0, N0⟩ : Grid) P1 = some (ZP, none) :=
  rfl

theorem t011221221 : readBoardAux P2 3 (⟨N0, N1, N1, N2, N2, N1, N2, N2, N1⟩ : Grid) P2 = some (ZM, none) :=
  rfl

theorem v011221220 : readBoardAux P2 4 (⟨N0, N1, N1, N2, N2, N1, N2, N2, N0⟩ : Grid) P1 = some (ZM, some M00) :=
  readBoardAux_step P2 3 (⟨N0, N1, N1, N2, N2, N1, N2, N2, N0⟩ : Grid) P1 [M00, M22] rfl rfl
    (collectScores_cons t111221220 (collectScores_cons t011221221 collectScores_nil)) rfl

theorem t211221212 : readBoardAux P2 2 (⟨N2, N1, N1, N2, N2, N1, N2, N1, N2⟩ : Grid) P1 = some (ZP, none) :=
  rfl

theorem v011221212 : readBoardAux P2 3 (⟨N0, N1, N1, N2, N2, N1, N2, N1, N2⟩ : Grid) P2 = some (ZP, some M00) :=
  readBoardAux_step P2 2 (⟨N0, N1, N1, N2, N2, N1, N2, N1, N2⟩ : Grid) P2 [M00] rfl rfl
    (collectScores_cons t211221212 collectScores_nil) rfl

theorem v011221202 : readBoardAux P2 4 (⟨N0, N1, N1, N2, N2, N1, N2, N0, N2⟩ : Grid) P1 = some (ZM, some M00) :=
  readBoardAux_step P2 3 (⟨N0, N1, N1, N2, N2, N1, N2, N0, N2⟩ : Grid) P1 [M00, M21] rfl rfl
    (collectScores_cons t111221202 (collectScores_cons v011221212 collectScores_nil)) rfl

theorem v011221200 : readBoardAux P2 5 (⟨N0, N1, N1, N2, N2, N1, N2, N0, N0⟩ : Grid) P2 = some (ZP, some M00) :=
  readBoardAux_step P2 4 (⟨N0, N1, N1, N2, N2, N1, N2, N0, N0⟩ : Grid) P2 [M00, M21, M22] rfl rfl
    (collectScores_cons t211221200 (collectScores_cons v011221220 (collectScores_cons v011221202 collectScores_nil))) rfl

theorem t011222210 : readBoardAux P2 4 (⟨N0, N1, N1, N2, N2, N2, N2, N1, N0⟩ : Grid) P1 = some (ZP, none) :=
  rfl

theorem v011220212 : readBoardAux P2 4 (⟨N0, N1, N1, N2, N2, N0, N2, N1, N2⟩ : Grid) P1 = some (ZM, some M00) :=
  readBoardAux_step P2 3 (⟨N0, N1, N1, N2, N2, N0, N2, N1, N2⟩ : Grid) P1 [M00, M12] rfl rfl
    (collectScores_cons t111220212 (collectScores_cons v011221212 collectScores_nil)) rfl

theorem v011220210 : readBoardAux P2 5 (⟨N0, N1, N1, N2, N2, N0, N2, N1, N0⟩ : Grid) P2 = some (ZP, some M00) :=
  readBoardAux_step P2 4 (⟨N0, N1, N1, N2, N2, N0, N2, N1, N0⟩ : Grid) P2 [M00, M12, M22] rfl rfl
    (collectScores_cons t211220210 (collectScores_cons t011222210 (collectScores_cons v011220212 collectScores_nil))) rfl

theorem t011222201 : readBoardAux P2 4 (⟨N0, N1, N1, N2, N2, N2, N2, N0, N1⟩ : Grid) P1 = some (ZP, none) :=
  rfl

theorem v011220221 : readBoardAux P2 4 (⟨N0, N1, N1, N2, N2, N0, N2, N2, N1⟩ : Grid) P1 = some (ZM, some M00) :=
  readBoardAux_step P2 3 (⟨N0, N1, N1, N2, N2, N0, N2, N2, N1⟩ : Grid) P1 [M00, M12] rfl rfl
    (collectScores_cons t111220221 (collectScores_cons t011221221 collectScores_nil)) rfl

theorem v011220201 : readBoardAux P2 5 (⟨N0, N1, N1, N2, N2, N0, N2, N0, N1⟩ : Grid) P2 = some (ZP, some M00) :=
  readBoardAux_step P2 4 (⟨N0, N1, N1, N2, N2, N0, N2, N0, N1⟩ : Grid) P2 [M00, M12, M21] rfl rfl
    (collectScores_cons t211220201 (collectScores_cons t011222201 (collectScores_cons v011220221 collectScores_nil))) rfl

theorem v011220200 : readBoardAux P2 6 (⟨N0, N1, N1, N2, N2, N0, N2, N0, N0⟩ : Grid) P1 = some (ZM, some M00) :=
  readBoardAux_step P2 5 (⟨N0, N1, N1, N2, N2, N0, N2, N0, N0⟩ : Grid) P1 [M00, M12, M21, M22] rfl rfl
    (collectScores_cons t111220200 (collectScores_cons v011221200 (collectScores_cons v011220210 (collectScores_cons v011220201 collectScores_nil)))) rfl

theorem v011221122 : readBoardAux P2 3 (⟨N0, N1, N1, N2, N2, N1, N1, N2, N2⟩ : Grid) P2 = some (ZP, some M00) :=
  readBoardAux_step P2 2 (⟨N0, N1, N1, N2, N2, N1, N1, N2, N2⟩ : Grid) P2 [M00] rfl rfl
    (collectScores_cons t211221122 collectScores_nil) rfl

theorem v011221022 : readBoardAux P2 4 (⟨N0, N1, N1, N2, N2, N1, N0, N2, N2⟩ : Grid) P1 = some (ZM, some M00) :=
  readBoardAux_step P2 3 (⟨N0, N1, N1, N2, N2, N1, N0, N2, N2⟩ : Grid) P1 [M00, M20] rfl rfl
    (collectScores_cons t111221022 (collectScores_cons v011221122 collectScores_nil)) rfl

theorem v011221020 : readBoardAux P2 5 (⟨N0, N1, N1, N2, N2, N1, N0, N2, N0⟩ : Grid) P2 = some (ZM, some M00) :=
  readBoardAux_step P2 4 (⟨N0, N1, N1, N2, N2, N1, N0, N2, N0⟩ : Grid) P2 [M00, M20, M22] rfl rfl
    (collectScores_cons v211221020 (collectScores_cons v011221220 (collectScores_cons v011221022 collectScores_nil))) rfl

theorem t011222120 : readBoardAux P2 4 (⟨N0, N1, N1, N2, N2, N2, N1, N2, N0⟩ : Grid) P1 = some (ZP, none) :=
  rfl

theorem v011220122 : readBoardAux P2 4 (⟨N0, N1, N1, N2, N2, N0, N1, N2, N2⟩ : Grid) P1 = some (ZM, some M00) :=
  readBoardAux_step P2 3 (⟨N0, N1, N1, N2, N2, N0, N1, N2, N2⟩ : Grid) P1 [M00, M12] rfl rfl
    (collectScores_cons t111220122 (collectScores_cons v011221122 collectScores_nil)) rfl

theorem v011220120 : readBoardAux P2 5 (⟨N0, N1, N1, N2, N2, N0, N1, N2, N0⟩ : Grid) P2 = some (ZP, some M00) :=
  readBoardAux_step P2 4 (⟨N0, N1, N1, N2, N2, N0, N1, N2, N0⟩ : Grid) P2 [M00, M12, M22] rfl rfl
    (collectScores_cons v211220120 (collectScores_cons t011222120 (collectScores_cons v011220122 collectScores_nil))) rfl

theorem t011222021 : readBoardAux P2 4 (⟨N0, N1, N1, N2, N2, N2, N0, N2, N1⟩ : Grid) P1 = some (ZP, none) :=
  rfl

theorem v011220021 : readBoardAux P2 5 (⟨N0, N1, N1, N2, N2, N0, N0, N2, N1⟩ : Grid) P2 = some (ZP, some M12) :=
  readBoardAux_step P2 4 (⟨N0, N1, N1, N2, N2, N0, N0, N2, N1⟩ : Grid) P2 [M00, M12, M20] rfl rfl
    (collectScores_cons v211220021 (collectScores_cons t011222021 (collectScores_cons v011220221 collectScores_nil))) rfl

theorem v011220020 : readBoardAux P2 6 (⟨N0, N1, N1, N2, N2, N0, N0, N2, N0⟩ : Grid) P1 = some (ZM, some M00) :=
  readBoardAux_step P2 5 (⟨N0, N1, N1, N2, N2, N0, N0, N2, N0⟩ : Grid) P1 [M00, M12, M20, M22] rfl rfl
    (collectScores_cons t111220020 (collectScores_cons v011221020 (collectScores_cons v011220120 (collectScores_cons v011220021 collectScores_nil)))) rfl

theorem v011221002 : readBoardAux P2 5 (⟨N0, N1, N1, N2, N2, N1, N0, N0, N2⟩ : Grid) P2 = some (ZP, some M00) :=
  readBoardAux_step P2 4 (⟨N0, N1, N1, N2, N2, N1, N0, N0, N2⟩ : Grid) P2 [M00, M20, M21] rfl rfl
    (collectScores_cons t211221002 (collectScores_cons v011221202 (collectScores_cons v011221022 collectScores_nil))) rfl

theorem t011222102 : readBoardAux P2 4 (⟨N0, N1, N1, N2, N2, N2, N1, N0, N2⟩ : Grid) P1 = some (ZP, none) :=
  rfl

theorem v011220102 : readBoardAux P2 5 (⟨N0, N1, N1, N2, N2, N0, N1, N0, N2⟩ : Grid) P2 = some (ZP, some M00) :=
  readBoardAux_step P2 4 (⟨N0, N1, N1, N2, N2, N0, N1, N0, N2⟩ : Grid) P2 [M00, M12, M21] rfl rfl
    (collectScores_cons t211220102 (collectScores_cons t011222102 (collectScores_cons v011220122 collectScores_nil))) rfl

theorem t011222012 : readBoardAux P2 4 (⟨N0, N1, N1, N2, N2, N2, N0, N1, N2⟩ : Grid) P1 = some (ZP, none) :=
  rfl

theorem v011220012 : readBoardAux P2 5 (⟨N0, N1, N1, N2, N2, N0, N0, N1, N2⟩ : Grid) P2 = some (ZP, some M00) :=
  readBoardAux_step P2 4 (⟨N0, N1, N1, N2, N2, N0, N0, N1, N2⟩ : Grid) P2 [M00, M12, M20] rfl rfl
    (collectScores_cons t211220012 (collectScores_cons t011222012 (collectScores_cons v011220212 collectScores_nil))) rfl

theorem v011220002 : readBoardAux P2 6 (⟨N0, N1, N1, N2, N2, N0, N0, N0, N2⟩ : Grid) P1 = some (ZM, some M00) :=
  readBoardAux_step P2 5 (⟨N0, N1, N1, N2, N2, N0, N0, N0, N2⟩ : Grid) P1 [M00, M12, M20, M21] rfl rfl
    (collectScores_cons t111220002 (collectScores_cons v011221002 (collectScores_cons v011220102 (collectScores_cons v011220012 collectScores_nil)))) rfl

theorem v011220000 : readBoardAux P2 7 (⟨N0, N1, N1, N2, N2, N0, N0, N0, N0⟩ : Grid) P2 = some (ZP, some M00) :=
  readBoardAux_step P2 6 (⟨N0, N1, N1, N2, N2, N0, N0, N0, N0⟩ : Grid) P2 [M00, M12, M20, M21, M22] rfl rfl
    (collectScores_cons v211220000 (collectScores_cons t011222000 (collectScores_cons v011220200 (collectScores_cons v011220020 (collectScores_cons v011220002 collectScores_nil))))) rfl

theorem v010221212 : readBoardAux P2 4 (⟨N0, N1, N0, N2, N2, N1, N2, N1, N2⟩ : Grid) P1 = some (ZP, some M00) :=
  readBoardAux_step P2 3 (⟨N0, N1, N0, N2, N2, N1, N2, N1, N2⟩ : Grid) P1 [M00, M02] rfl rfl
    (collectScores_cons v110221212 (collectScores_cons v011221212 collectScores_nil)) rfl

theorem v010221210 : readBoardAux P2 5 (⟨N0, N1, N0, N2, N2, N1, N2, N1, N0⟩ : Grid) P2 = some (ZP, some M00) :=
  readBoardAux_step P2 4 (⟨N0, N1, N0, N2, N2, N1, N2, N1, N0⟩ : Grid) P2 [M00, M02, M22] rfl rfl
    (collectScores_cons t210221210 (collectScores_cons t012221210 (collectScores_cons v010221212 collectScores_nil))) rfl

theorem v010221221 : readBoardAux P2 4 (⟨N0, N1, N0, N2, N2, N1, N2, N2, N1⟩ : Grid) P1 = some (ZM, some M02) :=
  readBoardAux_step P2 3 (⟨N0, N1, N0, N2, N2, N1, N2, N2, N1⟩ : Grid) P1 [M00, M02] rfl rfl
    (collectScores_cons v110221221 (collectScores_cons t011221221 collectScores_nil)) rfl

theorem v010221201 : readBoardAux P2 5 (⟨N0, N1, N0, N2, N2, N1, N2, N0, N1⟩ : Grid) P2 = some (ZP, some M00) :=
  readBoardAux_step P2 4 (⟨N0, N1, N0, N2, N2, N1, N2, N0, N1⟩ : Grid) P2 [M00, M02, M21] rfl rfl
    (collectScores_cons t210221201 (collectScores_cons t012221201 (collectScores_cons v010221221 collectScores_nil))) rfl

theorem v010221200 : readBoardAux P2 6 (⟨N0, N1, N0, N2, N2, N1, N2, N0, N0⟩ : Grid) P1 = some (ZP, some M00) :=
  readBoardAux_step P2 5 (⟨N0, N1, N0, N2, N2, N1, N2, N0, N0⟩ : Grid) P1 [M00, M02, M21, M22] rfl rfl
    (collectScores_cons v110221200 (collectScores_cons v011221200 (collectScores_cons v010221210 (collectScores_cons v010221201 collectScores_nil)))) rfl

theorem v010221122 : readBoardAux P2 4 (⟨N0, N1, N0, N2, N2, N1, N1, N2, N2⟩ : Grid) P1 = some (Z0, some M00) :=
  readBoardAux_step P2 3 (⟨N0, N1, N0, N2, N2, N1, N1, N2, N2⟩ : Grid) P1 [M00, M02] rfl rfl
    (collectScores_cons v110221122 (collectScores_cons v011221122 collectScores_nil)) rfl

theorem v010221120 : readBoardAux P2 5 (⟨N0, N1, N0, N2, N2, N1, N1, N2, N0⟩ : Grid) P2 = some (Z0, some M00) :=
  readBoardAux_step P2 4 (⟨N0, N1, N0, N2, N2, N1, N1, N2, N0⟩ : Grid) P2 [M00, M02, M22] rfl rfl
    (collectScores_cons v210221120 (collectScores_cons v012221120 (collectScores_cons v010221122 collectScores_nil))) rfl

theorem v010221021 : readBoardAux P2 5 (⟨N0, N1, N0, N2, N2, N1, N0, N2, N1⟩ : Grid) P2 = some (Z0, some M02) :=
  readBoardAux_step P2 4 (⟨N0, N1, N0, N2, N2, N1, N0, N2, N1⟩ : Grid) P2 [M00, M02, M20] rfl rfl
    (collectScores_cons v210221021 (collectScores_cons v012221021 (collectScores_cons v010221221 collectScores_nil))) rfl

theorem v010221020 : readBoardAux P2 6 (⟨N0, N1, N0, N2, N2, N1, N0, N2, N0⟩ : Grid) P1 = some (ZM, some M02) :=
  readBoardAux_step P2 5 (⟨N0, N1, N0, N2, N2, N1, N0, N2, N0⟩ : Grid) P1 [M00, M02, M20, M22] rfl rfl
    (collectScores_cons v110221020 (collectScores_cons v011221020 (collectScores_cons v010221120 (collectScores_cons v010221021 collectScores_nil)))) rfl

theorem v010221102 : readBoardAux P2 5 (⟨N0, N1, N0, N2, N2, N1, N1, N0, N2⟩ : Grid) P2 = some (ZP, some M00) :=
  readBoardAux_step P2 4 (⟨N0, N1, N0, N2, N2, N1, N1, N0, N2⟩ : Grid) P2 [M00, M02, M21] rfl rfl
    (collectScores_cons t210221102 (collectScores_cons v012221102 (collectScores_cons v010221122 collectScores_nil))) rfl

theorem v010221012 : readBoardAux P2 5 (⟨N0, N1, N0, N2, N2, N1, N0, N1, N2⟩ : Grid) P2 = some (ZP, some M00) :=
  readBoardAux_step P2 4 (⟨N0, N1, N0, N2, N2, N1, N0, N1, N2⟩ : Grid) P2 [M00, M02, M20] rfl rfl
    (collectScores_cons t210221012 (collectScores_cons v012221012 (collectScores_cons v010221212 collectScores_nil))) rfl

theorem v010221002 : readBoardAux P2 6 (⟨N0, N1, N0, N2, N2, N1, N0, N0, N2⟩ : Grid) P1 = some (Z0, some M00) :=
  readBoardAux_step P2 5 (⟨N0, N1, N0, N2, N2, N1, N0, N0, N2⟩ : Grid) P1 [M00, M02, M20, M21] rfl rfl
    (collectScores_cons v110221002 (collectScores_cons v011221002 (collectScores_cons v010221102 (collectScores_cons v010221012 collectScores_nil)))) rfl

theorem v010221000 : readBoardAux P2 7 (⟨N0, N1, N0, N2, N2, N1, N0, N0, N0⟩ : Grid) P2 = some (ZP, some M00) :=
  readBoardAux_step P2 6 (⟨N0, N1, N0, N2, N2, N1, N0, N0, N0⟩ : Grid) P2 [M00, M02, M20, M21, M22] rfl rfl
    (collectScores_cons v210221000 (collectScores_cons v012221000 (collectScores_cons v010221200 (collectScores_cons v010221020 (collectScores_cons v010221002 collectScores_nil))))) rfl

theorem t010222100 : readBoardAux P2 6 (⟨N0, N1, N0, N2, N2, N2, N1, N0, N0⟩ : Grid) P1 = some (ZP, none) :=
  rfl

theorem t010222121 : readBoardAux P2 4 (⟨N0, N1, N0, N2, N2, N2, N1, N2, N1⟩ : Grid) P1 = some (ZP, none) :=
  rfl

theorem v010220121 : readBoardAux P2 5 (⟨N0, N1, N0, N2, N2, N0, N1, N2, N1⟩ : Grid) P2 = some (ZP, some M12) :=
  readBoardAux_step P2 4 (⟨N0, N1, N0, N2, N2, N0, N1, N2, N1⟩ : Grid) P2 [M00, M02, M12] rfl rfl
    (collectScores_cons v210220121 (collectScores_cons v012220121 (collectScores_cons t010222121 collectScores_nil))) rfl

theorem v010220120 : readBoardAux P2 6 (⟨N0, N1, N0, N2, N2, N0, N1, N2, N0⟩ : Grid) P1 = some (Z0, some M12) :=
  readBoardAux_step P2 5 (⟨N0, N1, N0, N2, N2, N0, N1, N2, N0⟩ : Grid) P1 [M00, M02, M12, M22] rfl rfl
    (collectScores_cons v110220120 (collectScores_cons v011220120 (collectScores_cons v010221120 (collectScores_cons v010220121 collectScores_nil)))) rfl

theorem t010222112 : readBoardAux P2 4 (⟨N0, N1, N0, N2, N2, N2, N1, N1, N2⟩ : Grid) P1 = some (ZP, none) :=
  rfl

theorem v010220112 : readBoardAux P2 5 (⟨N0, N1, N0, N2, N2, N0, N1, N1, N2⟩ : Grid) P2 = some (ZP, some M00) :=
  readBoardAux_step P2 4 (⟨N0, N1, N0, N2, N2, N0, N1, N1, N2⟩ : Grid) P2 [M00, M02, M12] rfl rfl
    (collectScores_cons t210220112 (collectScores_cons v012220112 (collectScores_cons t010222112 collectScores_nil))) rfl

theorem v010220102 : readBoardAux P2 6 (⟨N0, N1, N0, N2, N2, N0, N1, N0, N2⟩ : Grid) P1 = some (ZP, some M00) :=
  readBoardAux_step P2 5 (⟨N0, N1, N0, N2, N2, N0, N1, N0, N2⟩ : Grid) P1 [M00, M02, M12, M21] rfl rfl
    (collectScores_cons v110220102 (collectScores_cons v011220102 (collectScores_cons v010221102 (collectScores_cons v010220112 collectScores_nil)))) rfl

theorem v010220100 : readBoardAux P2 7 (⟨N0, N1, N0, N2, N2, N0, N1, N0, N0⟩ : Grid) P2 = some (ZP, some M00) :=
  readBoardAux_step P2 6 (⟨N0, N1, N0, N2, N2, N0, N1, N0, N0⟩ : Grid) P2 [M00, M02, M12, M21, M22] rfl rfl
    (collectScores_cons v210220100 (collectScores_cons v012220100 (collectScores_cons t010222100 (collectScores_cons v010220120 (collectScores_cons v010220102 collectScores_nil))))) rfl

theorem t010222010 : readBoardAux P2 6 (⟨N0, N1, N0, N2, N2, N2, N0, N1, N0⟩ : Grid) P1 = some (ZP, none) :=
  rfl

theorem t010222211 : readBoardAux P2 4 (⟨N0, N1, N0, N2, N2, N2, N2, N1, N1⟩ : Grid) P1 = some (ZP, none) :=
  rfl

theorem v010220211 : readBoardAux P2 5 (⟨N0, N1, N0, N2, N2, N0, N2, N1, N1⟩ : Grid) P2 = some (ZP, some M00) :=
  readBoardAux_step P2 4 (⟨N0, N1, N0, N2, N2, N0, N2, N1, N1⟩ : Grid) P2 [M00, M02, M12] rfl rfl
    (collectScores_cons t210220211 (collectScores_cons t012220211 (collectScores_cons t010222211 collectScores_nil))) rfl

theorem v010220210 : readBoardAux P2 6 (⟨N0, N1, N0, N2, N2, N0, N2, N1, N0⟩ : Grid) P1 = some (ZP, some M00) :=
  readBoardAux_step P2 5 (⟨N0, N1, N0, N2, N2, N0, N2, N1, N0⟩ : Grid) P1 [M00, M02, M12, M22] rfl rfl
    (collectScores_cons v110220210 (collectScores_cons v011220210 (collectScores_cons v010221210 (collectScores_cons v010220211 collectScores_nil)))) rfl

theorem v010220012 : readBoardAux P2 6 (⟨N0, N1, N0, N2, N2, N0, N0, N1, N2⟩ : Grid) P1 = some (ZP, some M00) :=
  readBoardAux_step P2 5 (⟨N0, N1, N0, N2, N2, N0, N0, N1, N2⟩ : Grid) P1 [M00, M02, M12, M20] rfl rfl
    (collectScores_cons v110220012 (collectScores_cons v011220012 (collectScores_cons v010221012 (collectScores_cons v010220112 collectScores_nil)))) rfl

theorem v010220010 : readBoardAux P2 7 (⟨N0, N1, N0, N2, N2, N0, N0, N1, N0⟩ : Grid) P2 = some (ZP, some M00) :=
  readBoardAux_step P2 6 (⟨N0, N1, N0, N2, N2, N0, N0, N1, N0⟩ : Grid) P2 [M00, M02, M12, M20, M22] rfl rfl
    (collectScores_cons v210220010 (collectScores_cons v012220010 (collectScores_cons t010222010 (collectScores_cons v010220210 (collectScores_cons v010220012 collectScores_nil))))) rfl

theorem t010222001 : readBoardAux P2 6 (⟨N0, N1, N0, N2, N2, N2, N0, N0, N1⟩ : Grid) P1 = some (ZP, none) :=
  rfl

theorem v010220201 : readBoardAux P2 6 (⟨N0, N1, N0, N2, N2, N0, N2, N0, N1⟩ : Grid) P1 = some (ZP, some M00) :=
  readBoardAux_step P2 5 (⟨N0, N1, N0, N2, N2, N0, N2, N0, N1⟩ : Grid) P1 [M00, M02, M12, M21] rfl rfl
    (collectScores_cons v110220201 (collectScores_cons v011220201 (collectScores_cons v010221201 (collectScores_cons v010220211 collectScores_nil)))) rfl

theorem v010220021 : readBoardAux P2 6 (⟨N0, N1, N0, N2, N2, N0, N0, N2, N1⟩ : Grid) P1 = some (Z0, some M12) :=
  readBoardAux_step P2 5 (⟨N0, N1, N0, N2, N2, N0, N0, N2, N1⟩ : Grid) P1 [M00, M02, M12, M20] rfl rfl
    (collectScores_cons v110220021 (collectScores_cons v011220021 (collectScores_cons v010221021 (collectScores_cons v010220121 collectScores_nil)))) rfl

theorem v010220001 : readBoardAux P2 7 (⟨N0, N1, N0, N2, N2, N0, N0, N0, N1⟩ : Grid) P2 = some (ZP, some M00) :=
  readBoardAux_step P2 6 (⟨N0, N1, N0, N2, N2, N0, N0, N0, N1⟩ : Grid) P2 [M00, M02, M12, M20, M21] rfl rfl
    (collectScores_cons v210220001 (collectScores_cons v012220001 (collectScores_cons t010222001 (collectScores_cons v010220201 (collectScores_cons v010220021 collectScores_nil))))) rfl

theorem v010220000 : readBoardAux P2 8 (⟨N0, N1, N0, N2, N2, N0, N0, N0, N0⟩ : Grid) P1 = some (ZP, some M00) :=
  readBoardAux_step P2 7 (⟨N0, N1, N0, N2, N2, N0, N0, N0, N0⟩ : Grid) P1 [M00, M02, M12, M20, M21, M22] rfl rfl
    (collectScores_cons v110220000 (collectScores_cons v011220000 (collectScores_cons v010221000 (collectScores_cons v010220100 (collectScores_cons v010220010 (collectScores_cons v010220001 collectScores_nil)))))) rfl

theorem v011212221 : readBoardAux P2 3 (⟨N0, N1, N1, N2, N1, N2, N2, N2, N1⟩ : Grid) P2 = some (ZP, some M00) :=
  readBoardAux_step P2 2 (⟨N0, N1, N1, N2, N1, N2, N2, N2, N1⟩ : Grid) P2 [M00] rfl rfl
    (collectScores_cons t211212221 collectScores_nil) rfl

theorem v011212220 : readBoardAux P2 4 (⟨N0, N1, N1, N2, N1, N2, N2, N2, N0⟩ : Grid) P1 = some (ZM, some M00) :=
  readBoardAux_step P2 3 (⟨N0, N1, N1, N2, N1, N2, N2, N2, N0⟩ : Grid) P1 [M00, M22] rfl rfl
    (collectScores_cons t111212220 (collectScores_cons v011212221 collectScores_nil)) rfl

theorem t011212212 : readBoardAux P2 3 (⟨N0, N1, N1, N2, N1, N2, N2, N1, N2⟩ : Grid) P2 = some (ZM, none) :=
  rfl

theorem v011212202 : readBoardAux P2 4 (⟨N0, N1, N1, N2, N1, N2, N2, N0, N2⟩ : Grid) P1 = some (ZM, some M00) :=
  readBoardAux_step P2 3 (⟨N0, N1, N1, N2, N1, N2, N2, N0, N2⟩ : Grid) P1 [M00, M21] rfl rfl
    (collectScores_cons t111212202 (collectScores_cons t011212212 collectScores_nil)) rfl

theorem v011212200 : readBoardAux P2 5 (⟨N0, N1, N1, N2, N1, N2, N2, N0, N0⟩ : Grid) P2 = some (ZP, some M00) :=
  readBoardAux_step P2 4 (⟨N0, N1, N1, N2, N1, N2, N2, N0, N0⟩ : Grid) P2 [M00, M21, M22] rfl rfl
    (collectScores_cons t211212200 (collectScores_cons v011212220 (collectScores_cons v011212202 collectScores_nil))) rfl

theorem v011202212 : readBoardAux P2 4 (⟨N0, N1, N1, N2, N0, N2, N2, N1, N2⟩ : Grid) P1 = some (ZM, some M00) :=
  readBoardAux_step P2 3 (⟨N0, N1, N1, N2, N0, N2, N2, N1, N2⟩ : Grid) P1 [M00, M11] rfl rfl
    (collectScores_cons t111202212 (collectScores_cons t011212212 collectScores_nil)) rfl

theorem v011202210 : readBoardAux P2 5 (⟨N0, N1, N1, N2, N0, N2, N2, N1, N0⟩ : Grid) P2 = some (ZP, some M00) :=
  readBoardAux_step P2 4 (⟨N0, N1, N1, N2, N0, N2, N2, N1, N0⟩ : Grid) P2 [M00, M11, M22] rfl rfl
    (collectScores_cons t211202210 (collectScores_cons t011222210 (collectScores_cons v011202212 collectScores_nil))) rfl

theorem v011202221 : readBoardAux P2 4 (⟨N0, N1, N1, N2, N0, N2, N2, N2, N1⟩ : Grid) P1 = some (ZM, some M00) :=
  readBoardAux_step P2 3 (⟨N0, N1, N1, N2, N0, N2, N2, N2, N1⟩ : Grid) P1 [M00, M11] rfl rfl
    (collectScores_cons t111202221 (collectScores_cons v011212221 collectScores_nil)) rfl

theorem v011202201 : readBoardAux P2 5 (⟨N0, N1, N1, N2, N0, N2, N2, N0, N1⟩ : Grid) P2 = some (ZP, some M00) :=
  readBoardAux_step P2 4 (⟨N0, N1, N1, N2, N0, N2, N2, N0, N1⟩ : Grid) P2 [M00, M11, M21] rfl rfl
    (collectScores_cons t211202201 (collectScores_cons t011222201 (collectScores_cons v011202221 collectScores_nil))) rfl

theorem v011202200 : readBoardAux P2 6 (⟨N0, N1, N1, N2, N0, N2, N2, N0, N0⟩ : Grid) P1 = some (ZM, some M00) :=
  readBoardAux_step P2 5 (⟨N0, N1, N1, N2, N0, N2, N2, N0, N0⟩ : Grid) P1 [M00, M11, M21, M22] rfl rfl
    (collectScores_cons t111202200 (collectScores_cons v011212200 (collectScores_cons v011202210 (collectScores_cons v011202201 collectScores_nil)))) rfl

theorem t011212122 : readBoardAux P2 3 (⟨N0, N1, N1, N2, N1, N2, N1, N2, N2⟩ : Grid) P2 = some (ZM, none) :=
  rfl

theorem v011212022 : readBoardAux P2 4 (⟨N0, N1, N1, N2, N1, N2, N0, N2, N2⟩ : Grid) P1 = some (ZM, some M00) :=
  readBoardAux_step P2 3 (⟨N0, N1, N1, N2, N1, N2, N0, N2, N2⟩ : Grid) P1 [M00, M20] rfl rfl
    (collectScores_cons t111212022 (collectScores_cons t011212122 collectScores_nil)) rfl

theorem v011212020 : readBoardAux P2 5 (⟨N0, N1, N1, N2, N1, N2, N0, N2, N0⟩ : Grid) P2 = some (ZM, some M00) :=
  readBoardAux_step P2 4 (⟨N0, N1, N1, N2, N1, N2, N0, N2, N0⟩ : Grid) P2 [M00, M20, M22] rfl rfl
    (collectScores_cons v211212020 (collectScores_cons v011212220 (collectScores_cons v011212022 collectScores_nil))) rfl

theorem v011202122 : readBoardAux P2 4 (⟨N0, N1, N1, N2, N0, N2, N1, N2, N2⟩ : Grid) P1 = some (ZM, some M00) :=
  readBoardAux_step P2 3 (⟨N0, N1, N1, N2, N0, N2, N1, N2, N2⟩ : Grid) P1 [M00, M11] rfl rfl
    (collectScores_cons t111202122 (collectScores_cons t011212122 collectScores_nil)) rfl

theorem v011202120 : readBoardAux P2 5 (⟨N0, N1, N1, N2, N0, N2, N1, N2, N0⟩ : Grid) P2 = some (ZP, some M11) :=
  readBoardAux_step P2 4 (⟨N0, N1, N1, N2, N0, N2, N1, N2, N0⟩ : Grid) P2 [M00, M11, M22] rfl rfl
    (collectScores_cons v211202120 (collectScores_cons t011222120 (collectScores_cons v011202122 collectScores_nil))) rfl

theorem v011202021 : readBoardAux P2 5 (⟨N0, N1, N1, N2, N0, N2, N0, N2, N1⟩ : Grid) P2 = some (ZP, some M00) :=
  readBoardAux_step P2 4 (⟨N0, N1, N1, N2, N0, N2, N0, N2, N1⟩ : Grid) P2 [M00, M11, M20] rfl rfl
    (collectScores_cons v211202021 (collectScores_cons t011222021 (collectScores_cons v011202221 collectScores_nil))) rfl

theorem v011202020 : readBoardAux P2 6 (⟨N0, N1, N1, N2, N0, N2, N0, N2, N0⟩ : Grid) P1 = some (ZM, some M00) :=
  readBoardAux_step P2 5 (⟨N0, N1, N1, N2, N0, N2, N0, N2, N0⟩ : Grid) P1 [M00, M11, M20, M22] rfl rfl
    (collectScores_cons t111202020 (collectScores_cons v011212020 (collectScores_cons v011202120 (collectScores_cons v011202021 collectScores_nil)))) rfl

theorem v011212002 : readBoardAux P2 5 (⟨N0, N1, N1, N2, N1, N2, N0, N0, N2⟩ : Grid) P2 = some (ZM, some M00) :=
  readBoardAux_step P2 4 (⟨N0, N1, N1, N2, N1, N2, N0, N0, N2⟩ : Grid) P2 [M00, M20, M21] rfl rfl
    (collectScores_cons v211212002 (collectScores_cons v011212202 (collectScores_cons v011212022 collectScores_nil))) rfl

theorem v011202102 : readBoardAux P2 5 (⟨N0, N1, N1, N2, N0, N2, N1, N0, N2⟩ : Grid) P2 = some (ZP, some M11) :=
  readBoardAux_step P2 4 (⟨N0, N1, N1, N2, N0, N2, N1, N0, N2⟩ : Grid) P2 [M00, M11, M21] rfl rfl
    (collectScores_cons v211202102 (collectScores_cons t011222102 (collectScores_cons v011202122 collectScores_nil))) rfl

theorem v011202012 : readBoardAux P2 5 (⟨N0, N1, N1, N2, N0, N2, N0, N1, N2⟩ : Grid) P2 = some (ZP, some M11) :=
  readBoardAux_step P2 4 (⟨N0, N1, N1, N2, N0, N2, N0, N1, N2⟩ : Grid) P2 [M00, M11, M20] rfl rfl
    (collectScores_cons v211202012 (collectScores_cons t011222012 (collectScores_cons v011202212 collectScores_nil))) rfl

theorem v011202002 : readBoardAux P2 6 (⟨N0, N1, N1, N2, N0, N2, N0, N0, N2⟩ : Grid) P1 = some (ZM, some M00) :=
  readBoardAux_step P2 5 (⟨N0, N1, N1, N2, N0, N2, N0, N0, N2⟩ : Grid) P1 [M00, M11, M20, M21] rfl rfl
    (collectScores_cons t111202002 (collectScores_cons v011212002 (collectScores_cons v011202102 (collectScores_cons v011202012 collectScores_nil)))) rfl

theorem v011202000 : readBoardAux P2 7 (⟨N0, N1, N1, N2, N0, N2, N0, N0, N0⟩ : Grid) P2 = some (ZP, some M00) :=
  readBoardAux_step P2 6 (⟨N0, N1, N1, N2, N0, N2, N0, N0, N0⟩ : Grid) P2 [M00, M11, M20, M21, M22] rfl rfl
    (collectScores_cons v211202000 (collectScores_cons t011222000 (collectScores_cons v011202200 (collectScores_cons v011202020 (collectScores_cons v011202002 collectScores_nil))))) rfl

theorem t010212210 : readBoardAux P2 5 (⟨N0, N1, N0, N2, N1, N2, N2, N1, N0⟩ : Grid) P2 = some (ZM, none) :=
  rfl

theorem v010212221 : readBoardAux P2 4 (⟨N0, N1, N0, N2, N1, N2, N2, N2, N1⟩ : Grid) P1 = some (ZM, some M00) :=
  readBoardAux_step P2 3 (⟨N0, N1, N0, N2, N1, N2, N2, N2, N1⟩ : Grid) P1 [M00, M02] rfl rfl
    (collectScores_cons t110212221 (collectScores_cons v011212221 collectScores_nil)) rfl

theorem v010212201 : readBoardAux P2 5 (⟨N0, N1, N0, N2, N1, N2, N2, N0, N1⟩ : Grid) P2 = some (ZP, some M00) :=
  readBoardAux_step P2 4 (⟨N0, N1, N0, N2, N1, N2, N2, N0, N1⟩ : Grid) P2 [M00, M02, M21] rfl rfl
    (collectScores_cons t210212201 (collectScores_cons v012212201 (collectScores_cons v010212221 collectScores_nil))) rfl

theorem v010212200 : readBoardAux P2 6 (⟨N0, N1, N0, N2, N1, N2, N2, N0, N0⟩ : Grid) P1 = some (ZM, some M00) :=
  readBoardAux_step P2 5 (⟨N0, N1, N0, N2, N1, N2, N2, N0, N0⟩ : Grid) P1 [M00, M02, M21, M22] rfl rfl
    (collectScores_cons v110212200 (collectScores_cons v011212200 (collectScores_cons t010212210 (collectScores_cons v010212201 collectScores_nil)))) rfl

theorem v010212122 : readBoardAux P2 4 (⟨N0, N1, N0, N2, N1, N2, N1, N2, N2⟩ : Grid) P1 = some (ZM, some M02) :=
  readBoardAux_step P2 3 (⟨N0, N1, N0, N2, N1, N2, N1, N2, N2⟩ : Grid) P1 [M00, M02] rfl rfl
    (collectScores_cons v110212122 (collectScores_cons t011212122 collectScores_nil)) rfl

theorem v010212120 : readBoardAux P2 5 (⟨N0, N1, N0, N2, N1, N2, N1, N2, N0⟩ : Grid) P2 = some (Z0, some M02) :=
  readBoardAux_step P2 4 (⟨N0, N1, N0, N2, N1, N2, N1, N2, N0⟩ : Grid) P2 [M00, M02, M22] rfl rfl
    (collectScores_cons v210212120 (collectScores_cons v012212120 (collectScores_cons v010212122 collectScores_nil))) rfl

theorem v010212021 : readBoardAux P2 5 (⟨N0, N1, N0, N2, N1, N2, N0, N2, N1⟩ : Grid) P2 = some (Z0, some M00) :=
  readBoardAux_step P2 4 (⟨N0, N1, N0, N2, N1, N2, N0, N2, N1⟩ : Grid) P2 [M00, M02, M20] rfl rfl
    (collectScores_cons v210212021 (collectScores_cons v012212021 (collectScores_cons v010212221 collectScores_nil))) rfl

theorem v010212020 : readBoardAux P2 6 (⟨N0, N1, N0, N2, N1, N2, N0, N2, N0⟩ : Grid) P1 = some (ZM, some M00) :=
  readBoardAux_step P2 5 (⟨N0, N1, N0, N2, N1, N2, N0, N2, N0⟩ : Grid) P1 [M00, M02, M20, M22] rfl rfl
    (collectScores_cons v110212020 (collectScores_cons v011212020 (collectScores_cons v010212120 (collectScores_cons v010212021 collectScores_nil)))) rfl

theorem v010212102 : readBoardAux P2 5 (⟨N0, N1, N0, N2, N1, N2, N1, N0, N2⟩ : Grid) P2 = some (ZP, some M02) :=
  readBoardAux_step P2 4 (⟨N0, N1, N0, N2, N1, N2, N1, N0, N2⟩ : Grid) P2 [M00, M02, M21] rfl rfl
    (collectScores_cons v210212102 (collectScores_cons t012212102 (collectScores_cons v010212122 collectScores_nil))) rfl

theorem t010212012 : readBoardAux P2 5 (⟨N0, N1, N0, N2, N1, N2, N0, N1, N2⟩ : Grid) P2 = some (ZM, none) :=
  rfl

theorem v010212002 : readBoardAux P2 6 (⟨N0, N1, N0, N2, N1, N2, N0, N0, N2⟩ : Grid) P1 = some (ZM, some M02) :=
  readBoardAux_step P2 5 (⟨N0, N1, N0, N2, N1, N2, N0, N0, N2⟩ : Grid) P1 [M00, M02, M20, M21] rfl rfl
    (collectScores_cons v110212002 (collectScores_cons v011212002 (collectScores_cons v010212102 (collectScores_cons t010212012 collectScores_nil)))) rfl

theorem v010212000 : readBoardAux P2 7 (⟨N0, N1, N0, N2, N1, N2, N0, N0, N0⟩ : Grid) P2 = some (ZM, some M00) :=
  readBoardAux_step P2 6 (⟨N0, N1, N0, N2, N1, N2, N0, N0, N0⟩ : Grid) P2 [M00, M02, M20, M21, M22] rfl rfl
    (collectScores_cons v210212000 (collectScores_cons v012212000 (collectScores_cons v010212200 (collectScores_cons v010212020 (collectScores_cons v010212002 collectScores_nil))))) rfl

theorem v010202121 : readBoardAux P2 5 (⟨N0, N1, N0, N2, N0, N2, N1, N2, N1⟩ : Grid) P2 = some (ZP, some M11) :=
  readBoardAux_step P2 4 (⟨N0, N1, N0, N2, N0, N2, N1, N2, N1⟩ : Grid) P2 [M00, M02, M11] rfl rfl
    (collectScores_cons v210202121 (collectScores_cons v012202121 (collectScores_cons t010222121 collectScores_nil))) rfl

theorem v010202120 : readBoardAux P2 6 (⟨N0, N1, N0, N2, N0, N2, N1, N2, N0⟩ : Grid) P1 = some (Z0, some M11) :=
  readBoardAux_step P2 5 (⟨N0, N1, N0, N2, N0, N2, N1, N2, N0⟩ : Grid) P1 [M00, M02, M11, M22] rfl rfl
    (collectScores_cons v110202120 (collectScores_cons v011202120 (collectScores_cons v010212120 (collectScores_cons v010202121 collectScores_nil)))) rfl

theorem v010202112 : readBoardAux P2 5 (⟨N0, N1, N0, N2, N0, N2, N1, N1, N2⟩ : Grid) P2 = some (ZP, some M02) :=
  readBoardAux_step P2 4 (⟨N0, N1, N0, N2, N0, N2, N1, N1, N2⟩ : Grid) P2 [M00, M02, M11] rfl rfl
    (collectScores_cons v210202112 (collectScores_cons t012202112 (collectScores_cons t010222112 collectScores_nil))) rfl

theorem v010202102 : readBoardAux P2 6 (⟨N0, N1, N0, N2, N0, N2, N1, N0, N2⟩ : Grid) P1 = some (ZP, some M00) :=
  readBoardAux_step P2 5 (⟨N0, N1, N0, N2, N0, N2, N1, N0, N2⟩ : Grid) P1 [M00, M02, M11, M21] rfl rfl
    (collectScores_cons v110202102 (collectScores_cons v011202102 (collectScores_cons v010212102 (collectScores_cons v010202112 collectScores_nil)))) rfl

theorem v010202100 : readBoardAux P2 7 (⟨N0, N1, N0, N2, N0, N2, N1, N0, N0⟩ : Grid) P2 = some (ZP, some M02) :=
  readBoardAux_step P2 6 (⟨N0, N1, N0, N2, N0, N2, N1, N0, N0⟩ : Grid) P2 [M00, M02, M11, M21, M22] rfl rfl
    (collectScores_cons v210202100 (collectScores_cons v012202100 (collectScores_cons t010222100 (collectScores_cons v010202120 (collectScores_cons v010202102 collectScores_nil))))) rfl

theorem v010202211 : readBoardAux P2 5 (⟨N0, N1, N0, N2, N0, N2, N2, N1, N1⟩ : Grid) P2 = some (ZP, some M00) :=
  readBoardAux_step P2 4 (⟨N0, N1, N0, N2, N0, N2, N2, N1, N1⟩ : Grid) P2 [M00, M02, M11] rfl rfl
    (collectScores_cons t210202211 (collectScores_cons v012202211 (collectScores_cons t010222211 collectScores_nil))) rfl

theorem v010202210 : readBoardAux P2 6 (⟨N0, N1, N0, N2, N0, N2, N2, N1, N0⟩ : Grid) P1 = some (ZM, some M11) :=
  readBoardAux_step P2 5 (⟨N0, N1, N0, N2, N0, N2, N2, N1, N0⟩ : Grid) P1 [M00, M02, M11, M22] rfl rfl
    (collectScores_cons v110202210 (collectScores_cons v011202210 (collectScores_cons t010212210 (collectScores_cons v010202211 collectScores_nil)))) rfl

theorem v010202012 : readBoardAux P2 6 (⟨N0, N1, N0, N2, N0, N2, N0, N1, N2⟩ : Grid) P1 = some (ZM, some M11) :=
  readBoardAux_step P2 5 (⟨N0, N1, N0, N2, N0, N2, N0, N1, N2⟩ : Grid) P1 [M00, M02, M11, M20] rfl rfl
    (collectScores_cons v110202012 (collectScores_cons v011202012 (collectScores_cons t010212012 (collectScores_cons v010202112 collectScores_nil)))) rfl

theorem v010202010 : readBoardAux P2 7 (⟨N0, N1, N0, N2, N0, N2, N0, N1, N0⟩ : Grid) P2 = some (ZP, some M11) :=
  readBoardAux_step P2 6 (⟨N0, N1, N0, N2, N0, N2, N0, N1, N0⟩ : Grid) P2 [M00, M02, M11, M20, M22] rfl rfl
    (collectScores_cons v210202010 (collectScores_cons v012202010 (collectScores_cons t010222010 (collectScores_cons v010202210 (collectScores_cons v010202012 collectScores_nil))))) rfl

theorem v010202201 : readBoardAux P2 6 (⟨N0, N1, N0, N2, N0, N2, N2, N0, N1⟩ : Grid) P1 = some (ZP, some M00) :=
  readBoardAux_step P2 5 (⟨N0, N1, N0, N2, N0, N2, N2, N0, N1⟩ : Grid) P1 [M00, M02, M11, M21] rfl rfl
    (collectScores_cons v110202201 (collectScores_cons v011202201 (collectScores_cons v010212201 (collectScores_cons v010202211 collectScores_nil)))) rfl

theorem v010202021 : readBoardAux P2 6 (⟨N0, N1, N0, N2, N0, N2, N0, N2, N1⟩ : Grid) P1 = some (Z0, some M11) :=
  readBoardAux_step P2 5 (⟨N0, N1, N0, N2, N0, N2, N0, N2, N1⟩ : Grid) P1 [M00, M02, M11, M20] rfl rfl
    (collectScores_cons v110202021 (collectScores_cons v011202021 (collectScores_cons v010212021 (collectScores_cons v010202121 collectScores_nil)))) rfl

theorem v010202001 : readBoardAux P2 7 (⟨N0, N1, N0, N2, N0, N2, N0, N0, N1⟩ : Grid) P2 = some (ZP, some M00) :=
  readBoardAux_step P2 6 (⟨N0, N1, N0, N2, N0, N2, N0, N0, N1⟩ : Grid) P2 [M00, M02, M11, M20, M21] rfl rfl
    (collectScores_cons v210202001 (collectScores_cons v012202001 (collectScores_cons t010222001 (collectScores_cons v010202201 (collectScores_cons v010202021 collectScores_nil))))) rfl

theorem v010202000 : readBoardAux P2 8 (⟨N0, N1, N0, N2, N0, N2, N0, N0, N0⟩ : Grid) P1 = some (ZM, some M11) :=
  readBoardAux_step P2 7 (⟨N0, N1, N0, N2, N0, N2, N0, N0, N0⟩ : Grid) P1 [M00, M02, M11, M20, M21, M22] rfl rfl
    (collectScores_cons v110202000 (collectScores_cons v011202000 (collectScores_cons v010212000 (collectScores_cons v010202100 (collectScores_cons v010202010 (collectScores_cons v010202001 collectScores_nil)))))) rfl

theorem t011210222 : readBoardAux P2 4 (⟨N0, N1, N1, N2, N1, N0, N2, N2, N2⟩ : Grid) P1 = some (ZP, none) :=
  rfl

theorem v011210220 : readBoardAux P2 5 (⟨N0, N1, N1, N2, N1, N0, N2, N2, N0⟩ : Grid) P2 = some (ZP, some M00) :=
  readBoardAux_step P2 4 (⟨N0, N1, N1, N2, N1, N0, N2, N2, N0⟩ : Grid) P2 [M00, M12, M22] rfl rfl
    (collectScores_cons t211210220 (collectScores_cons v011212220 (collectScores_cons t011210222 collectScores_nil))) rfl

theorem t011201222 : readBoardAux P2 4 (⟨N0, N1, N1, N2, N0, N1, N2, N2, N2⟩ : Grid) P1 = some (ZP, none) :=
  rfl

theorem v011201220 : readBoardAux P2 5 (⟨N0, N1, N1, N2, N0, N1, N2, N2, N0⟩ : Grid) P2 = some (ZP, some M00) :=
  readBoardAux_step P2 4 (⟨N0, N1, N1, N2, N0, N1, N2, N2, N0⟩ : Grid) P2 [M00, M11, M22] rfl rfl
    (collectScores_cons t211201220 (collectScores_cons v011221220 (collectScores_cons t011201222 collectScores_nil))) rfl

theorem v011200221 : readBoardAux P2 5 (⟨N0, N1, N1, N2, N0, N0, N2, N2, N1⟩ : Grid) P2 = some (ZP, some M00) :=
  readBoardAux_step P2 4 (⟨N0, N1, N1, N2, N0, N0, N2, N2, N1⟩ : Grid) P2 [M00, M11, M12] rfl rfl
    (collectScores_cons t211200221 (collectScores_cons v011220221 (collectScores_cons v011202221 collectScores_nil))) rfl

theorem v011200220 : readBoardAux P2 6 (⟨N0, N1, N1, N2, N0, N0, N2, N2, N0⟩ : Grid) P1 = some (ZM, some M00) :=
  readBoardAux_step P2 5 (⟨N0, N1, N1, N2, N0, N0, N2, N2, N0⟩ : Grid) P1 [M00, M11, M12, M22] rfl rfl
    (collectScores_cons t111200220 (collectScores_cons v011210220 (collectScores_cons v011201220 (collectScores_cons v011200221 collectScores_nil)))) rfl

theorem v011210202 : readBoardAux P2 5 (⟨N0, N1, N1, N2, N1, N0, N2, N0, N2⟩ : Grid) P2 = some (ZP, some M00) :=
  readBoardAux_step P2 4 (⟨N0, N1, N1, N2, N1, N0, N2, N0, N2⟩ : Grid) P2 [M00, M12, M21] rfl rfl
    (collectScores_cons t211210202 (collectScores_cons v011212202 (collectScores_cons t011210222 collectScores_nil))) rfl

theorem v011201202 : readBoardAux P2 5 (⟨N0, N1, N1, N2, N0, N1, N2, N0, N2⟩ : Grid) P2 = some (ZP, some M00) :=
  readBoardAux_step P2 4 (⟨N0, N1, N1, N2, N0, N1, N2, N0, N2⟩ : Grid) P2 [M00, M11, M21] rfl rfl
    (collectScores_cons t211201202 (collectScores_cons v011221202 (collectScores_cons t011201222 collectScores_nil))) rfl

theorem v011200212 : readBoardAux P2 5 (⟨N0, N1, N1, N2, N0, N0, N2, N1, N2⟩ : Grid) P2 = some (ZP, some M00) :=
  readBoardAux_step P2 4 (⟨N0, N1, N1, N2, N0, N0, N2, N1, N2⟩ : Grid) P2 [M00, M11, M12] rfl rfl
    (collectScores_cons t211200212 (collectScores_cons v011220212 (collectScores_cons v011202212 collectScores_nil))) rfl

theorem v011200202 : readBoardAux P2 6 (⟨N0, N1, N1, N2, N0, N0, N2, N0, N2⟩ : Grid) P1 = some (ZM, some M00) :=
  readBoardAux_step P2 5 (⟨N0, N1, N1, N2, N0, N0, N2, N0, N2⟩ : Grid) P1 [M00, M11, M12, M21] rfl rfl
    (collectScores_cons t111200202 (collectScores_cons v011210202 (collectScores_cons v011201202 (collectScores_cons v011200212 collectScores_nil)))) rfl

theorem v011200200 : readBoardAux P2 7 (⟨N0, N1, N1, N2, N0, N0, N2, N0, N0⟩ : Grid) P2 = some (ZP, some M00) :=
  readBoardAux_step P2 6 (⟨N0, N1, N1, N2, N0, N0, N2, N0, N0⟩ : Grid) P2 [M00, M11, M12, M21, M22] rfl rfl
    (collectScores_cons t211200200 (collectScores_cons v011220200 (collectScores_cons v011202200 (collectScores_cons v011200220 (collectScores_cons v011200202 collectScores_nil))))) rfl

theorem t010211222 : readBoardAux P2 4 (⟨N0, N1, N0, N2, N1, N1, N2, N2, N2⟩ : Grid) P1 = some (ZP, none) :=
  rfl

theorem v010211220 : readBoardAux P2 5 (⟨N0, N1, N0, N2, N1, N1, N2, N2, N0⟩ : Grid) P2 = some (ZP, some M00) :=
  readBoardAux_step P2 4 (⟨N0, N1, N0, N2, N1, N1, N2, N2, N0⟩ : Grid) P2 [M00, M02, M22] rfl rfl
    (collectScores_cons t210211220 (collectScores_cons v012211220 (collectScores_cons t010211222 collectScores_nil))) rfl

theorem v010210221 : readBoardAux P2 5 (⟨N0, N1, N0, N2, N1, N0, N2, N2, N1⟩ : Grid) P2 = some (ZP, some M00) :=
  readBoardAux_step P2 4 (⟨N0, N1, N0, N2, N1, N0, N2, N2, N1⟩ : Grid) P2 [M00, M02, M12] rfl rfl
    (collectScores_cons t210210221 (collectScores_cons v012210221 (collectScores_cons v010212221 collectScores_nil))) rfl

theorem v010210220 : readBoardAux P2 6 (⟨N0, N1, N0, N2, N1, N0, N2, N2, N0⟩ : Grid) P1 = some (ZP, some M00) :=
  readBoardAux_step P2 5 (⟨N0, N1, N0, N2, N1, N0, N2, N2, N0⟩ : Grid) P1 [M00, M02, M12, M22] rfl rfl
    (collectScores_cons v110210220 (collectScores_cons v011210220 (collectScores_cons v010211220 (collectScores_cons v010210221 collectScores_nil)))) rfl

theorem v010211202 : readBoardAux P2 5 (⟨N0, N1, N0, N2, N1, N1, N2, N0, N2⟩ : Grid) P2 = some (ZP, some M00) :=
  readBoardAux_step P2 4 (⟨N0, N1, N0, N2, N1, N1, N2, N0, N2⟩ : Grid) P2 [M00, M02, M21] rfl rfl
    (collectScores_cons t210211202 (collectScores_cons v012211202 (collectScores_cons t010211222 collectScores_nil))) rfl

theorem t010210212 : readBoardAux P2 5 (⟨N0, N1, N0, N2, N1, N0, N2, N1, N2⟩ : Grid) P2 = some (ZM, none) :=
  rfl

theorem v010210202 : readBoardAux P2 6 (⟨N0, N1, N0, N2, N1, N0, N2, N0, N2⟩ : Grid) P1 = some (ZM, some M21) :=
  readBoardAux_step P2 5 (⟨N0, N1, N0, N2, N1, N0, N2, N0, N2⟩ : Grid) P1 [M00, M02, M12, M21] rfl rfl
    (collectScores_cons v110210202 (collectScores_cons v011210202 (collectScores_cons v010211202 (collectScores_cons t010210212 collectScores_nil)))) rfl

theorem v010210200 : readBoardAux P2 7 (⟨N0, N1, N0, N2, N1, N0, N2, N0, N0⟩ : Grid) P2 = some (ZP, some M00) :=
  readBoardAux_step P2 6 (⟨N0, N1, N0, N2, N1, N0, N2, N0, N0⟩ : Grid) P2 [M00, M02, M12, M21, M22] rfl rfl
    (collectScores_cons t210210200 (collectScores_cons v012210200 (collectScores_cons v010212200 (collectScores_cons v010210220 (collectScores_cons v010210202 collectScores_nil))))) rfl

theorem v010201221 : readBoardAux P2 5 (⟨N0, N1, N0, N2, N0, N1, N2, N2, N1⟩ : Grid) P2 = some (ZP, some M00) :=
  readBoardAux_step P2 4 (⟨N0, N1, N0, N2, N0, N1, N2, N2, N1⟩ : Grid) P2 [M00, M02, M11] rfl rfl
    (collectScores_cons t210201221 (collectScores_cons v012201221 (collectScores_cons v010221221 collectScores_nil))) rfl

theorem v010201220 : readBoardAux P2 6 (⟨N0, N1, N0, N2, N0, N1, N2, N2, N0⟩ : Grid) P1 = some (ZP, some M00) :=
  readBoardAux_step P2 5 (⟨N0, N1, N0, N2, N0, N1, N2, N2, N0⟩ : Grid) P1 [M00, M02, M11, M22] rfl rfl
    (collectScores_cons v110201220 (collectScores_cons v011201220 (collectScores_cons v010211220 (collectScores_cons v010201221 collectScores_nil)))) rfl

theorem v010201212 : readBoardAux P2 5 (⟨N0, N1, N0, N2, N0, N1, N2, N1, N2⟩ : Grid) P2 = some (ZP, some M00) :=
  readBoardAux_step P2 4 (⟨N0, N1, N0, N2, N0, N1, N2, N1, N2⟩ : Grid) P2 [M00, M02, M11] rfl rfl
    (collectScores_cons t210201212 (collectScores_cons v012201212 (collectScores_cons v010221212 collectScores_nil))) rfl

theorem v010201202 : readBoardAux P2 6 (⟨N0, N1, N0, N2, N0, N1, N2, N0, N2⟩ : Grid) P1 = some (ZP, some M00) :=
  readBoardAux_step P2 5 (⟨N0, N1, N0, N2, N0, N1, N2, N0, N2⟩ : Grid) P1 [M00, M02, M11, M21] rfl rfl
    (collectScores_cons v110201202 (collectScores_cons v011201202 (collectScores_cons v010211202 (collectScores_cons v010201212 collectScores_nil)))) rfl

theorem v010201200 : readBoardAux P2 7 (⟨N0, N1, N0, N2, N0, N1, N2, N0, N0⟩ : Grid) P2 = some (ZP, some M00) :=
  readBoardAux_step P2 6 (⟨N0, N1, N0, N2, N0, N1, N2, N0, N0⟩ : Grid) P2 [M00, M02, M11, M21, M22] rfl rfl
    (collectScores_cons t210201200 (collectScores_cons v012201200 (collectScores_cons v010221200 (collectScores_cons v010201220 (collectScores_cons v010201202 collectScores_nil))))) rfl

theorem v010200212 : readBoardAux P2 6 (⟨N0, N1, N0, N2, N0, N0, N2, N1, N2⟩ : Grid) P1 = some (ZM, some M00) :=
  readBoardAux_step P2 5 (⟨N0, N1, N0, N2, N0, N0, N2, N1, N2⟩ : Grid) P1 [M00, M02, M11, M12] rfl rfl
    (collectScores_cons v110200212 (collectScores_cons v011200212 (collectScores_cons t010210212 (collectScores_cons v010201212 collectScores_nil)))) rfl

theorem v010200210 : readBoardAux P2 7 (⟨N0, N1, N0, N2, N0, N0, N2, N1, N0⟩ : Grid) P2 = some (ZP, some M00) :=
  readBoardAux_step P2 6 (⟨N0, N1, N0, N2, N0, N0, N2, N1, N0⟩ : Grid) P2 [M00, M02, M11, M12, M22] rfl rfl
    (collectScores_cons t210200210 (collectScores_cons v012200210 (collectScores_cons v010220210 (collectScores_cons v010202210 (collectScores_cons v010200212 collectScores_nil))))) rfl

theorem v010200221 : readBoardAux P2 6 (⟨N0, N1, N0, N2, N0, N0, N2, N2, N1⟩ : Grid) P1 = some (ZM, some M00) :=
  readBoardAux_step P2 5 (⟨N0, N1, N0, N2, N0, N0, N2, N2, N1⟩ : Grid) P1 [M00, M02, M11, M12] rfl rfl
    (collectScores_cons v110200221 (collectScores_cons v011200221 (collectScores_cons v010210221 (collectScores_cons v010201221 collectScores_nil)))) rfl

theorem v010200201 : readBoardAux P2 7 (⟨N0, N1, N0, N2, N0, N0, N2, N0, N1⟩ : Grid) P2 = some (ZP, some M00) :=
  readBoardAux_step P2 6 (⟨N0, N1, N0, N2, N0, N0, N2, N0, N1⟩ : Grid) P2 [M00, M02, M11, M12, M21] rfl rfl
    (collectScores_cons t210200201 (collectScores_cons v012200201 (collectScores_cons v010220201 (collectScores_cons v010202201 (collectScores_cons v010200221 collectScores_nil))))) rfl

theorem v010200200 : readBoardAux P2 8 (⟨N0, N1, N0, N2, N0, N0, N2, N0, N0⟩ : Grid) P1 = some (ZM, some M00) :=
  readBoardAux_step P2 7 (⟨N0, N1, N0, N2, N0, N0, N2, N0, N0⟩ : Grid) P1 [M00, M02, M11, M12, M21, M22] rfl rfl
    (collectScores_cons v110200200 (collectScores_cons v011200200 (collectScores_cons v010210200 (collectScores_cons v010201200 (collectScores_cons v010200210 (collectScores_cons v010200201 collectScores_nil)))))) rfl

theorem v011210022 : readBoardAux P2 5 (⟨N0, N1, N1, N2, N1, N0, N0, N2, N2⟩ : Grid) P2 = some (ZP, some M20) :=
  readBoardAux_step P2 4 (⟨N0, N1, N1, N2, N1, N0, N0, N2, N2⟩ : Grid) P2 [M00, M12, M20] rfl rfl
    (collectScores_cons v211210022 (collectScores_cons v011212022 (collectScores_cons t011210222 collectScores_nil))) rfl

theorem v011201022 : readBoardAux P2 5 (⟨N0, N1, N1, N2, N0, N1, N0, N2, N2⟩ : Grid) P2 = some (ZP, some M00) :=
  readBoardAux_step P2 4 (⟨N0, N1, N1, N2, N0, N1, N0, N2, N2⟩ : Grid) P2 [M00, M11, M20] rfl rfl
    (collectScores_cons v211201022 (collectScores_cons v011221022 (collectScores_cons t011201222 collectScores_nil))) rfl

theorem v011200122 : readBoardAux P2 5 (⟨N0, N1, N1, N2, N0, N0, N1, N2, N2⟩ : Grid) P2 = some (ZM, some M00) :=
  readBoardAux_step P2 4 (⟨N0, N1, N1, N2, N0, N0, N1, N2, N2⟩ : Grid) P2 [M00, M11, M12] rfl rfl
    (collectScores_cons v211200122 (collectScores_cons v011220122 (collectScores_cons v011202122 collectScores_nil))) rfl

theorem v011200022 : readBoardAux P2 6 (⟨N0, N1, N1, N2, N0, N0, N0, N2, N2⟩ : Grid) P1 = some (ZM, some M00) :=
  readBoardAux_step P2 5 (⟨N0, N1, N1, N2, N0, N0, N0, N2, N2⟩ : Grid) P1 [M00, M11, M12, M20] rfl rfl
    (collectScores_cons t111200022 (collectScores_cons v011210022 (collectScores_cons v011201022 (collectScores_cons v011200122 collectScores_nil)))) rfl

theorem v011200020 : readBoardAux P2 7 (⟨N0, N1, N1, N2, N0, N0, N0, N2, N0⟩ : Grid) P2 = some (ZP, some M00) :=
  readBoardAux_step P2 6 (⟨N0, N1, N1, N2, N0, N0, N0, N2, N0⟩ : Grid) P2 [M00, M11, M12, M20, M22] rfl rfl
    (collectScores_cons v211200020 (collectScores_cons v011220020 (collectScores_cons v011202020 (collectScores_cons v011200220 (collectScores_cons v011200022 collectScores_nil))))) rfl

theorem v010211022 : readBoardAux P2 5 (⟨N0, N1, N0, N2, N1, N1, N0, N2, N2⟩ : Grid) P2 = some (ZP, some M20) :=
  readBoardAux_step P2 4 (⟨N0, N1, N0, N2, N1, N1, N0, N2, N2⟩ : Grid) P2 [M00, M02, M20] rfl rfl
    (collectScores_cons v210211022 (collectScores_cons v012211022 (collectScores_cons t010211222 collectScores_nil))) rfl

theorem v010210122 : readBoardAux P2 5 (⟨N0, N1, N0, N2, N1, N0, N1, N2, N2⟩ : Grid) P2 = some (Z0, some M02) :=
  readBoardAux_step P2 4 (⟨N0, N1, N0, N2, N1, N0, N1, N2, N2⟩ : Grid) P2 [M00, M02, M12] rfl rfl
    (collectScores_cons v210210122 (collectScores_cons v012210122 (collectScores_cons v010212122 collectScores_nil))) rfl

theorem v010210022 : readBoardAux P2 6 (⟨N0, N1, N0, N2, N1, N0, N0, N2, N2⟩ : Grid) P1 = some (Z0, some M20) :=
  readBoardAux_step P2 5 (⟨N0, N1, N0, N2, N1, N0, N0, N2, N2⟩ : Grid) P1 [M00, M02, M12, M20] rfl rfl
    (collectScores_cons v110210022 (collectScores_cons v011210022 (collectScores_cons v010211022 (collectScores_cons v010210122 collectScores_nil)))) rfl

theorem v010210020 : readBoardAux P2 7 (⟨N0, N1, N0, N2, N1, N0, N0, N2, N0⟩ : Grid) P2 = some (ZP, some M20) :=
  readBoardAux_step P2 6 (⟨N0, N1, N0, N2, N1, N0, N0, N2, N0⟩ : Grid) P2 [M00, M02, M12, M20, M22] rfl rfl
    (collectScores_cons v210210020 (collectScores_cons v012210020 (collectScores_cons v010212020 (collectScores_cons v010210220 (collectScores_cons v010210022 collectScores_nil))))) rfl

theorem v010201122 : readBoardAux P2 5 (⟨N0, N1, N0, N2, N0, N1, N1, N2, N2⟩ : Grid) P2 = some (Z0, some M00) :=
  readBoardAux_step P2 4 (⟨N0, N1, N0, N2, N0, N1, N1, N2, N2⟩ : Grid) P2 [M00, M02, M11] rfl rfl
    (collectScores_cons v210201122 (collectScores_cons v012201122 (collectScores_cons v010221122 collectScores_nil))) rfl

theorem v010201022 : readBoardAux P2 6 (⟨N0, N1, N0, N2, N0, N1, N0, N2, N2⟩ : Grid) P1 = some (Z0, some M20) :=
  readBoardAux_step P2 5 (⟨N0, N1, N0, N2, N0, N1, N0, N2, N2⟩ : Grid) P1 [M00, M02, M11, M20] rfl rfl
    (collectScores_cons v110201022 (collectScores_cons v011201022 (collectScores_cons v010211022 (collectScores_cons v010201122 collectScores_nil)))) rfl

theorem v010201020 : readBoardAux P2 7 (⟨N0, N1, N0, N2, N0, N1, N0, N2, N0⟩ : Grid) P2 = some (ZP, some M20) :=
  readBoardAux_step P2 6 (⟨N0, N1, N0, N2, N0, N1, N0, N2, N0⟩ : Grid) P2 [M00, M02, M11, M20, M22] rfl rfl
    (collectScores_cons v210201020 (collectScores_cons v012201020 (collectScores_cons v010221020 (collectScores_cons v010201220 (collectScores_cons v010201022 collectScores_nil))))) rfl

theorem v010200122 : readBoardAux P2 6 (⟨N0, N1, N0, N2, N0, N0, N1, N2, N2⟩ : Grid) P1 = some (ZM, some M02) :=
  readBoardAux_step P2 5 (⟨N0, N1, N0, N2, N0, N0, N1, N2, N2⟩ : Grid) P1 [M00, M02, M11, M12] rfl rfl
    (collectScores_cons v110200122 (collectScores_cons v011200122 (collectScores_cons v010210122 (collectScores_cons v010201122 collectScores_nil)))) rfl

theorem v010200120 : readBoardAux P2 7 (⟨N0, N1, N0, N2, N0, N0, N1, N2, N0⟩ : Grid) P2 = some (Z0, some M00) :=
  readBoardAux_step P2 6 (⟨N0, N1, N0, N2, N0, N0, N1, N2, N0⟩ : Grid) P2 [M00, M02, M11, M12, M22] rfl rfl
    (collectScores_cons v210200120 (collectScores_cons v012200120 (collectScores_cons v010220120 (collectScores_cons v010202120 (collectScores_cons v010200122 collectScores_nil))))) rfl

theorem v010200021 : readBoardAux P2 7 (⟨N0, N1, N0, N2, N0, N0, N0, N2, N1⟩ : Grid) P2 = some (Z0, some M00) :=
  readBoardAux_step P2 6 (⟨N0, N1, N0, N2, N0, N0, N0, N2, N1⟩ : Grid) P2 [M00, M02, M11, M12, M20] rfl rfl
    (collectScores_cons v210200021 (collectScores_cons v012200021 (collectScores_cons v010220021 (collectScores_cons v010202021 (collectScores_cons v010200221 collectScores_nil))))) rfl

theorem v010200020 : readBoardAux P2 8 (⟨N0, N1, N0, N2, N0, N0, N0, N2, N0⟩ : Grid) P1 = some (Z0, some M20) :=
  readBoardAux_step P2 7 (⟨N0, N1, N0, N2, N0, N0, N0, N2, N0⟩ : Grid) P1 [M00, M02, M11, M12, M20, M22] rfl rfl
    (collectScores_cons v110200020 (collectScores_cons v011200020 (collectScores_cons v010210020 (collectScores_cons v010201020 (collectScores_cons v010200120 (collectScores_cons v010200021 collectScores_nil)))))) rfl

theorem v011200002 : readBoardAux P2 7 (⟨N0, N1, N1, N2, N0, N0, N0, N0, N2⟩ : Grid) P2 = some (ZP, some M00) :=
  readBoardAux_step P2 6 (⟨N0, N1, N1, N2, N0, N0, N0, N0, N2⟩ : Grid) P2 [M00, M11, M12, M20, M21] rfl rfl
    (collectScores_cons v211200002 (collectScores_cons v011220002 (collectScores_cons v011202002 (collectScores_cons v011200202 (collectScores_cons v011200022 collectScores_nil))))) rfl

theorem v010210002 : readBoardAux P2 7 (⟨N0, N1, N0, N2, N1, N0, N0, N0, N2⟩ : Grid) P2 = some (Z0, some M21) :=
  readBoardAux_step P2 6 (⟨N0, N1, N0, N2, N1, N0, N0, N0, N2⟩ : Grid) P2 [M00, M02, M12, M20, M21] rfl rfl
    (collectScores_cons v210210002 (collectScores_cons v012210002 (collectScores_cons v010212002 (collectScores_cons v010210202 (collectScores_cons v010210022 collectScores_nil))))) rfl

theorem v010201002 : readBoardAux P2 7 (⟨N0, N1, N0, N2, N0, N1, N0, N0, N2⟩ : Grid) P2 = some (ZP, some M00) :=
  readBoardAux_step P2 6 (⟨N0, N1, N0, N2, N0, N1, N0, N0, N2⟩ : Grid) P2 [M00, M02, M11, M20, M21] rfl rfl
    (collectScores_cons v210201002 (collectScores_cons v012201002 (collectScores_cons v010221002 (collectScores_cons v010201202 (collectScores_cons v010201022 collectScores_nil))))) rfl

theorem v010200102 : readBoardAux P2 7 (⟨N0, N1, N0, N2, N0, N0, N1, N0, N2⟩ : Grid) P2 = some (ZP, some M11) :=
  readBoardAux_step P2 6 (⟨N0, N1, N0, N2, N0, N0, N1, N0, N2⟩ : Grid) P2 [M00, M02, M11, M12, M21] rfl rfl
    (collectScores_cons v210200102 (collectScores_cons v012200102 (collectScores_cons v010220102 (collectScores_cons v010202102 (collectScores_cons v010200122 collectScores_nil))))) rfl

theorem v010200012 : readBoardAux P2 7 (⟨N0, N1, N0, N2, N0, N0, N0, N1, N2⟩ : Grid) P2 = some (ZP, some M11) :=
  readBoardAux_step P2 6 (⟨N0, N1, N0, N2, N0, N0, N0, N1, N2⟩ : Grid) P2 [M00, M02, M11, M12, M20] rfl rfl
    (collectScores_cons v210200012 (collectScores_cons v012200012 (collectScores_cons v010220012 (collectScores_cons v010202012 (collectScores_cons v010200212 collectScores_nil))))) rfl

theorem v010200002 : readBoardAux P2 8 (⟨N0, N1, N0, N2, N0, N0, N0, N0, N2⟩ : Grid) P1 = some (Z0, some M11) :=
  readBoardAux_step P2 7 (⟨N0, N1, N0, N2, N0, N0, N0, N0, N2⟩ : Grid) P1 [M00, M02, M11, M12, M20, M21] rfl rfl
    (collectScores_cons v110200002 (collectScores_cons v011200002 (collectScores_cons v010210002 (collectScores_cons v010201002 (collectScores_cons v010200102 (collectScores_cons v010200012 collectScores_nil)))))) rfl

theorem v010200000 : readBoardAux P2 9 (⟨N0, N1, N0, N2, N0, N0, N0, N0, N0⟩ : Grid) P2 = some (ZP, some M00) :=
  readBoardAux_step P2 8 (⟨N0, N1, N0, N2, N0, N0, N0, N0, N0⟩ : Grid) P2 [M00, M02, M11, M12, M20, M21, M22] rfl rfl
    (collectScores_cons v210200000 (collectScores_cons v012200000 (collectScores_cons v010220000 (collectScores_cons v010202000 (collectScores_cons v010200200 (collectScores_cons v010200020 (collectScores_cons v010200002 collectScores_nil))))))) rfl

theorem v001221212 : readBoardAux P2 4 (⟨N0, N0, N1, N2, N2, N1, N2, N1, N2⟩ : Grid) P1 = some (Z0, some M00) :=
  readBoardAux_step P2 3 (⟨N0, N0, N1, N2, N2, N1, N2, N1, N2⟩ : Grid) P1 [M00, M01] rfl rfl
    (collectScores_cons v101221212 (collectScores_cons v011221212 collectScores_nil)) rfl

theorem v001221210 : readBoardAux P2 5 (⟨N0, N0, N1, N2, N2, N1, N2, N1, N0⟩ : Grid) P2 = some (ZP, some M00) :=
  readBoardAux_step P2 4 (⟨N0, N0, N1, N2, N2, N1, N2, N1, N0⟩ : Grid) P2 [M00, M01, M22] rfl rfl
    (collectScores_cons t201221210 (collectScores_cons v021221210 (collectScores_cons v001221212 collectScores_nil))) rfl

theorem t001221201 : readBoardAux P2 5 (⟨N0, N0, N1, N2, N2, N1, N2, N0, N1⟩ : Grid) P2 = some (ZM, none) :=
  rfl

theorem v001221200 : readBoardAux P2 6 (⟨N0, N0, N1, N2, N2, N1, N2, N0, N0⟩ : Grid) P1 = some (ZM, some M00) :=
  readBoardAux_step P2 5 (⟨N0, N0, N1, N2, N2, N1, N2, N0, N0⟩ : Grid) P1 [M00, M01, M21, M22] rfl rfl
    (collectScores_cons v101221200 (collectScores_cons v011221200 (collectScores_cons v001221210 (collectScores_cons t001221201 collectScores_nil)))) rfl

theorem v001221122 : readBoardAux P2 4 (⟨N0, N0, N1, N2, N2, N1, N1, N2, N2⟩ : Grid) P1 = some (ZP, some M00) :=
  readBoardAux_step P2 3 (⟨N0, N0, N1, N2, N2, N1, N1, N2, N2⟩ : Grid) P1 [M00, M01] rfl rfl
    (collectScores_cons v101221122 (collectScores_cons v011221122 collectScores_nil)) rfl

theorem v001221120 : readBoardAux P2 5 (⟨N0, N0, N1, N2, N2, N1, N1, N2, N0⟩ : Grid) P2 = some (ZP, some M01) :=
  readBoardAux_step P2 4 (⟨N0, N0, N1, N2, N2, N1, N1, N2, N0⟩ : Grid) P2 [M00, M01, M22] rfl rfl
    (collectScores_cons v201221120 (collectScores_cons t021221120 (collectScores_cons v001221122 collectScores_nil))) rfl

theorem t001221021 : readBoardAux P2 5 (⟨N0, N0, N1, N2, N2, N1, N0, N2, N1⟩ : Grid) P2 = some (ZM, none) :=
  rfl

theorem v001221020 : readBoardAux P2 6 (⟨N0, N0, N1, N2, N2, N1, N0, N2, N0⟩ : Grid) P1 = some (ZM, some M01) :=
  readBoardAux_step P2 5 (⟨N0, N0, N1, N2, N2, N1, N0, N2, N0⟩ : Grid) P1 [M00, M01, M20, M22] rfl rfl
    (collectScores_cons v101221020 (collectScores_cons v011221020 (collectScores_cons v001221120 (collectScores_cons t001221021 collectScores_nil)))) rfl

theorem v001221102 : readBoardAux P2 5 (⟨N0, N0, N1, N2, N2, N1, N1, N0, N2⟩ : Grid) P2 = some (ZP, some M00) :=
  readBoardAux_step P2 4 (⟨N0, N0, N1, N2, N2, N1, N1, N0, N2⟩ : Grid) P2 [M00, M01, M21] rfl rfl
    (collectScores_cons t201221102 (collectScores_cons v021221102 (collectScores_cons v001221122 collectScores_nil))) rfl

theorem v001221012 : readBoardAux P2 5 (⟨N0, N0, N1, N2, N2, N1, N0, N1, N2⟩ : Grid) P2 = some (ZP, some M00) :=
  readBoardAux_step P2 4 (⟨N0, N0, N1, N2, N2, N1, N0, N1, N2⟩ : Grid) P2 [M00, M01, M20] rfl rfl
    (collectScores_cons t201221012 (collectScores_cons v021221012 (collectScores_cons v001221212 collectScores_nil))) rfl

theorem v001221002 : readBoardAux P2 6 (⟨N0, N0, N1, N2, N2, N1, N0, N0, N2⟩ : Grid) P1 = some (Z0, some M00) :=
  readBoardAux_step P2 5 (⟨N0, N0, N1, N2, N2, N1, N0, N0, N2⟩ : Grid) P1 [M00, M01, M20, M21] rfl rfl
    (collectScores_cons v101221002 (collectScores_cons v011221002 (collectScores_cons v001221102 (collectScores_cons v001221012 collectScores_nil)))) rfl

theorem v001221000 : readBoardAux P2 7 (⟨N0, N0, N1, N2, N2, N1, N0, N0, N0⟩ : Grid) P2 = some (Z0, some M22) :=
  readBoardAux_step P2 6 (⟨N0, N0, N1, N2, N2, N1, N0, N0, N0⟩ : Grid) P2 [M00, M01, M20, M21, M22] rfl rfl
    (collectScores_cons v201221000 (collectScores_cons v021221000 (collectScores_cons v001221200 (collectScores_cons v001221020 (collectScores_cons v001221002 collectScores_nil))))) rfl

theorem t001222100 : readBoardAux P2 6 (⟨N0, N0, N1, N2, N2, N2, N1, N0, N0⟩ : Grid) P1 = some (ZP, none) :=
  rfl

theorem t001222121 : readBoardAux P2 4 (⟨N0, N0, N1, N2, N2, N2, N1, N2, N1⟩ : Grid) P1 = some (ZP, none) :=
  rfl

theorem v001220121 : readBoardAux P2 5 (⟨N0, N0, N1, N2, N2, N0, N1, N2, N1⟩ : Grid) P2 = some (ZP, some M01) :=
  readBoardAux_step P2 4 (⟨N0, N0, N1, N2, N2, N0, N1, N2, N1⟩ : Grid) P2 [M00, M01, M12] rfl rfl
    (collectScores_cons v201220121 (collectScores_cons t021220121 (collectScores_cons t001222121 collectScores_nil))) rfl

theorem v001220120 : readBoardAux P2 6 (⟨N0, N0, N1, N2, N2, N0, N1, N2, N0⟩ : Grid) P1 = some (ZP, some M00) :=
  readBoardAux_step P2 5 (⟨N0, N0, N1, N2, N2, N0, N1, N2, N0⟩ : Grid) P1 [M00, M01, M12, M22] rfl rfl
    (collectScores_cons v101220120 (collectScores_cons v011220120 (collectScores_cons v001221120 (collectScores_cons v001220121 collectScores_nil)))) rfl

theorem t001222112 : readBoardAux P2 4 (⟨N0, N0, N1, N2, N2, N2, N1, N1, N2⟩ : Grid) P1 = some (ZP, none) :=
  rfl

theorem v001220112 : readBoardAux P2 5 (⟨N0, N0, N1, N2, N2, N0, N1, N1, N2⟩ : Grid) P2 = some (ZP, some M00) :=
  readBoardAux_step P2 4 (⟨N0, N0, N1, N2, N2, N0, N1, N1, N2⟩ : Grid) P2 [M00, M01, M12] rfl rfl
    (collectScores_cons t201220112 (collectScores_cons v021220112 (collectScores_cons t001222112 collectScores_nil))) rfl

theorem v001220102 : readBoardAux P2 6 (⟨N0, N0, N1, N2, N2, N0, N1, N0, N2⟩ : Grid) P1 = some (ZP, some M00) :=
  readBoardAux_step P2 5 (⟨N0, N0, N1, N2, N2, N0, N1, N0, N2⟩ : Grid) P1 [M00, M01, M12, M21] rfl rfl
    (collectScores_cons v101220102 (collectScores_cons v011220102 (collectScores_cons v001221102 (collectScores_cons v001220112 collectScores_nil)))) rfl

theorem v001220100 : readBoardAux P2 7 (⟨N0, N0, N1, N2, N2, N0, N1, N0, N0⟩ : Grid) P2 = some (ZP, some M00) :=
  readBoardAux_step P2 6 (⟨N0, N0, N1, N2, N2, N0, N1, N0, N0⟩ : Grid) P2 [M00, M01, M12, M21, M22] rfl rfl
    (collectScores_cons v201220100 (collectScores_cons v021220100 (collectScores_cons t001222100 (collectScores_cons v001220120 (collectScores_cons v001220102 collectScores_nil))))) rfl

theorem t001222010 : readBoardAux P2 6 (⟨N0, N0, N1, N2, N2, N2, N0, N1, N0⟩ : Grid) P1 = some (ZP, none) :=
  rfl

theorem t001222211 : readBoardAux P2 4 (⟨N0, N0, N1, N2, N2, N2, N2, N1, N1⟩ : Grid) P1 = some (ZP, none) :=
  rfl

theorem v001220211 : readBoardAux P2 5 (⟨N0, N0, N1, N2, N2, N0, N2, N1, N1⟩ : Grid) P2 = some (ZP, some M00) :=
  readBoardAux_step P2 4 (⟨N0, N0, N1, N2, N2, N0, N2, N1, N1⟩ : Grid) P2 [M00, M01, M12] rfl rfl
    (collectScores_cons t201220211 (collectScores_cons v021220211 (collectScores_cons t001222211 collectScores_nil))) rfl

theorem v001220210 : readBoardAux P2 6 (⟨N0, N0, N1, N2, N2, N0, N2, N1, N0⟩ : Grid) P1 = some (ZP, some M00) :=
  readBoardAux_step P2 5 (⟨N0, N0, N1, N2, N2, N0, N2, N1, N0⟩ : Grid) P1 [M00, M01, M12, M22] rfl rfl
    (collectScores_cons v101220210 (collectScores_cons v011220210 (collectScores_cons v001221210 (collectScores_cons v001220211 collectScores_nil)))) rfl

theorem v001220012 : readBoardAux P2 6 (⟨N0, N0, N1, N2, N2, N0, N0, N1, N2⟩ : Grid) P1 = some (ZP, some M00) :=
  readBoardAux_step P2 5 (⟨N0, N0, N1, N2, N2, N0, N0, N1, N2⟩ : Grid) P1 [M00, M01, M12, M20] rfl rfl
    (collectScores_cons v101220012 (collectScores_cons v011220012 (collectScores_cons v001221012 (collectScores_cons v001220112 collectScores_nil)))) rfl

theorem v001220010 : readBoardAux P2 7 (⟨N0, N0, N1, N2, N2, N0, N0, N1, N0⟩ : Grid) P2 = some (ZP, some M00) :=
  readBoardAux_step P2 6 (⟨N0, N0, N1, N2, N2, N0, N0, N1, N0⟩ : Grid) P2 [M00, M01, M12, M20, M22] rfl rfl
    (collectScores_cons v201220010 (collectScores_cons v021220010 (collectScores_cons t001222010 (collectScores_cons v001220210 (collectScores_cons v001220012 collectScores_nil))))) rfl

theorem t001222001 : readBoardAux P2 6 (⟨N0, N0, N1, N2, N2, N2, N0, N0, N1⟩ : Grid) P1 = some (ZP, none) :=
  rfl

theorem v001220201 : readBoardAux P2 6 (⟨N0, N0, N1, N2, N2, N0, N2, N0, N1⟩ : Grid) P1 = some (ZM, some M12) :=
  readBoardAux_step P2 5 (⟨N0, N0, N1, N2, N2, N0, N2, N0, N1⟩ : Grid) P1 [M00, M01, M12, M21] rfl rfl
    (collectScores_cons v101220201 (collectScores_cons v011220201 (collectScores_cons t001221201 (collectScores_cons v001220211 collectScores_nil)))) rfl

theorem v001220021 : readBoardAux P2 6 (⟨N0, N0, N1, N2, N2, N0, N0, N2, N1⟩ : Grid) P1 = some (ZM, some M12) :=
  readBoardAux_step P2 5 (⟨N0, N0, N1, N2, N2, N0, N0, N2, N1⟩ : Grid) P1 [M00, M01, M12, M20] rfl rfl
    (collectScores_cons v101220021 (collectScores_cons v011220021 (collectScores_cons t001221021 (collectScores_cons v001220121 collectScores_nil)))) rfl

theorem v001220001 : readBoardAux P2 7 (⟨N0, N0, N1, N2, N2, N0, N0, N0, N1⟩ : Grid) P2 = some (ZP, some M12) :=
  readBoardAux_step P2 6 (⟨N0, N0, N1, N2, N2, N0, N0, N0, N1⟩ : Grid) P2 [M00, M01, M12, M20, M21] rfl rfl
    (collectScores_cons v201220001 (collectScores_cons v021220001 (collectScores_cons t001222001 (collectScores_cons v001220201 (collectScores_cons v001220021 collectScores_nil))))) rfl

theorem v001220000 : readBoardAux P2 8 (⟨N0, N0, N1, N2, N2, N0, N0, N0, N0⟩ : Grid) P1 = some (Z0, some M12) :=
  readBoardAux_step P2 7 (⟨N0, N0, N1, N2, N2, N0, N0, N0, N0⟩ : Grid) P1 [M00, M01, M12, M20, M21, M22] rfl rfl
    (collectScores_cons v101220000 (collectScores_cons v011220000 (collectScores_cons v001221000 (collectScores_cons v001220100 (collectScores_cons v001220010 (collectScores_cons v001220001 collectScores_nil)))))) rfl

theorem v001212212 : readBoardAux P2 4 (⟨N0, N0, N1, N2, N1, N2, N2, N1, N2⟩ : Grid) P1 = some (ZM, some M01) :=
  readBoardAux_step P2 3 (⟨N0, N0, N1, N2, N1, N2, N2, N1, N2⟩ : Grid) P1 [M00, M01] rfl rfl
    (collectScores_cons v101212212 (collectScores_cons t011212212 collectScores_nil)) rfl

theorem v001212210 : readBoardAux P2 5 (⟨N0, N0, N1, N2, N1, N2, N2, N1, N0⟩ : Grid) P2 = some (ZP, some M00) :=
  readBoardAux_step P2 4 (⟨N0, N0, N1, N2, N1, N2, N2, N1, N0⟩ : Grid) P2 [M00, M01, M22] rfl rfl
    (collectScores_cons t201212210 (collectScores_cons v021212210 (collectScores_cons v001212212 collectScores_nil))) rfl

theorem v001212221 : readBoardAux P2 4 (⟨N0, N0, N1, N2, N1, N2, N2, N2, N1⟩ : Grid) P1 = some (ZM, some M00) :=
  readBoardAux_step P2 3 (⟨N0, N0, N1, N2, N1, N2, N2, N2, N1⟩ : Grid) P1 [M00, M01] rfl rfl
    (collectScores_cons t101212221 (collectScores_cons v011212221 collectScores_nil)) rfl

theorem v001212201 : readBoardAux P2 5 (⟨N0, N0, N1, N2, N1, N2, N2, N0, N1⟩ : Grid) P2 = some (ZP, some M00) :=
  readBoardAux_step P2 4 (⟨N0, N0, N1, N2, N1, N2, N2, N0, N1⟩ : Grid) P2 [M00, M01, M21] rfl rfl
    (collectScores_cons t201212201 (collectScores_cons v021212201 (collectScores_cons v001212221 collectScores_nil))) rfl

theorem v001212200 : readBoardAux P2 6 (⟨N0, N0, N1, N2, N1, N2, N2, N0, N0⟩ : Grid) P1 = some (ZM, some M00) :=
  readBoardAux_step P2 5 (⟨N0, N0, N1, N2, N1, N2, N2, N0, N0⟩ : Grid) P1 [M00, M01, M21, M22] rfl rfl
    (collectScores_cons v101212200 (collectScores_cons v011212200 (collectScores_cons v001212210 (collectScores_cons v001212201 collectScores_nil)))) rfl

theorem t001212120 : readBoardAux P2 5 (⟨N0, N0, N1, N2, N1, N2, N1, N2, N0⟩ : Grid) P2 = some (ZM, none) :=
  rfl

theorem v001212021 : readBoardAux P2 5 (⟨N0, N0, N1, N2, N1, N2, N0, N2, N1⟩ : Grid) P2 = some (ZM, some M00) :=
  readBoardAux_step P2 4 (⟨N0, N0, N1, N2, N1, N2, N0, N2, N1⟩ : Grid) P2 [M00, M01, M20] rfl rfl
    (collectScores_cons v201212021 (collectScores_cons v021212021 (collectScores_cons v001212221 collectScores_nil))) rfl

theorem v001212020 : readBoardAux P2 6 (⟨N0, N0, N1, N2, N1, N2, N0, N2, N0⟩ : Grid) P1 = some (ZM, some M00) :=
  readBoardAux_step P2 5 (⟨N0, N0, N1, N2, N1, N2, N0, N2, N0⟩ : Grid) P1 [M00, M01, M20, M22] rfl rfl
    (collectScores_cons v101212020 (collectScores_cons v011212020 (collectScores_cons t001212120 (collectScores_cons v001212021 collectScores_nil)))) rfl

theorem t001212102 : readBoardAux P2 5 (⟨N0, N0, N1, N2, N1, N2, N1, N0, N2⟩ : Grid) P2 = some (ZM, none) :=
  rfl

theorem v001212012 : readBoardAux P2 5 (⟨N0, N0, N1, N2, N1, N2, N0, N1, N2⟩ : Grid) P2 = some (ZM, some M00) :=
  readBoardAux_step P2 4 (⟨N0, N0, N1, N2, N1, N2, N0, N1, N2⟩ : Grid) P2 [M00, M01, M20] rfl rfl
    (collectScores_cons v201212012 (collectScores_cons v021212012 (collectScores_cons v001212212 collectScores_nil))) rfl

theorem v001212002 : readBoardAux P2 6 (⟨N0, N0, N1, N2, N1, N2, N0, N0, N2⟩ : Grid) P1 = some (ZM, some M00) :=
  readBoardAux_step P2 5 (⟨N0, N0, N1, N2, N1, N2, N0, N0, N2⟩ : Grid) P1 [M00, M01, M20, M21] rfl rfl
    (collectScores_cons v101212002 (collectScores_cons v011212002 (collectScores_cons t001212102 (collectScores_cons v001212012 collectScores_nil)))) rfl

theorem v001212000 : readBoardAux P2 7 (⟨N0, N0, N1, N2, N1, N2, N0, N0, N0⟩ : Grid) P2 = some (ZM, some M00) :=
  readBoardAux_step P2 6 (⟨N0, N0, N1, N2, N1, N2, N0, N0, N0⟩ : Grid) P2 [M00, M01, M20, M21, M22] rfl rfl
    (collectScores_cons v201212000 (collectScores_cons v021212000 (collectScores_cons v001212200 (collectScores_cons v001212020 (collectScores_cons v001212002 collectScores_nil))))) rfl

theorem v001202121 : readBoardAux P2 5 (⟨N0, N0, N1, N2, N0, N2, N1, N2, N1⟩ : Grid) P2 = some (ZP, some M11) :=
  readBoardAux_step P2 4 (⟨N0, N0, N1, N2, N0, N2, N1, N2, N1⟩ : Grid) P2 [M00, M01, M11] rfl rfl
    (collectScores_cons v201202121 (collectScores_cons v021202121 (collectScores_cons t001222121 collectScores_nil))) rfl

theorem v001202120 : readBoardAux P2 6 (⟨N0, N0, N1, N2, N0, N2, N1, N2, N0⟩ : Grid) P1 = some (ZM, some M11) :=
  readBoardAux_step P2 5 (⟨N0, N0, N1, N2, N0, N2, N1, N2, N0⟩ : Grid) P1 [M00, M01, M11, M22] rfl rfl
    (collectScores_cons v101202120 (collectScores_cons v011202120 (collectScores_cons t001212120 (collectScores_cons v001202121 collectScores_nil)))) rfl

theorem v001202112 : readBoardAux P2 5 (⟨N0, N0, N1, N2, N0, N2, N1, N1, N2⟩ : Grid) P2 = some (ZP, some M11) :=
  readBoardAux_step P2 4 (⟨N0, N0, N1, N2, N0, N2, N1, N1, N2⟩ : Grid) P2 [M00, M01, M11] rfl rfl
    (collectScores_cons v201202112 (collectScores_cons v021202112 (collectScores_cons t001222112 collectScores_nil))) rfl

theorem v001202102 : readBoardAux P2 6 (⟨N0, N0, N1, N2, N0, N2, N1, N0, N2⟩ : Grid) P1 = some (ZM, some M11) :=
  readBoardAux_step P2 5 (⟨N0, N0, N1, N2, N0, N2, N1, N0, N2⟩ : Grid) P1 [M00, M01, M11, M21] rfl rfl
    (collectScores_cons v101202102 (collectScores_cons v011202102 (collectScores_cons t001212102 (collectScores_cons v001202112 collectScores_nil)))) rfl

theorem v001202100 : readBoardAux P2 7 (⟨N0, N0, N1, N2, N0, N2, N1, N0, N0⟩ : Grid) P2 = some (ZP, some M11) :=
  readBoardAux_step P2 6 (⟨N0, N0, N1, N2, N0, N2, N1, N0, N0⟩ : Grid) P2 [M00, M01, M11, M21, M22] rfl rfl
    (collectScores_cons v201202100 (collectScores_cons v021202100 (collectScores_cons t001222100 (collectScores_cons v001202120 (collectScores_cons v001202102 collectScores_nil))))) rfl

theorem v001202211 : readBoardAux P2 5 (⟨N0, N0, N1, N2, N0, N2, N2, N1, N1⟩ : Grid) P2 = some (ZP, some M00) :=
  readBoardAux_step P2 4 (⟨N0, N0, N1, N2, N0, N2, N2, N1, N1⟩ : Grid) P2 [M00, M01, M11] rfl rfl
    (collectScores_cons t201202211 (collectScores_cons v021202211 (collectScores_cons t001222211 collectScores_nil))) rfl

theorem v001202210 : readBoardAux P2 6 (⟨N0, N0, N1, N2, N0, N2, N2, N1, N0⟩ : Grid) P1 = some (ZP, some M00) :=
  readBoardAux_step P2 5 (⟨N0, N0, N1, N2, N0, N2, N2, N1, N0⟩ : Grid) P1 [M00, M01, M11, M22] rfl rfl
    (collectScores_cons v101202210 (collectScores_cons v011202210 (collectScores_cons v001212210 (collectScores_cons v001202211 collectScores_nil)))) rfl

theorem v001202012 : readBoardAux P2 6 (⟨N0, N0, N1, N2, N0, N2, N0, N1, N2⟩ : Grid) P1 = some (ZM, some M11) :=
  readBoardAux_step P2 5 (⟨N0, N0, N1, N2, N0, N2, N0, N1, N2⟩ : Grid) P1 [M00, M01, M11, M20] rfl rfl
    (collectScores_cons v101202012 (collectScores_cons v011202012 (collectScores_cons v001212012 (collectScores_cons v001202112 collectScores_nil)))) rfl

theorem v001202010 : readBoardAux P2 7 (⟨N0, N0, N1, N2, N0, N2, N0, N1, N0⟩ : Grid) P2 = some (ZP, some M00) :=
  readBoardAux_step P2 6 (⟨N0, N0, N1, N2, N0, N2, N0, N1, N0⟩ : Grid) P2 [M00, M01, M11, M20, M22] rfl rfl
    (collectScores_cons v201202010 (collectScores_cons v021202010 (collectScores_cons t001222010 (collectScores_cons v001202210 (collectScores_cons v001202012 collectScores_nil))))) rfl

theorem v001202201 : readBoardAux P2 6 (⟨N0, N0, N1, N2, N0, N2, N2, N0, N1⟩ : Grid) P1 = some (ZP, some M00) :=
  readBoardAux_step P2 5 (⟨N0, N0, N1, N2, N0, N2, N2, N0, N1⟩ : Grid) P1 [M00, M01, M11, M21] rfl rfl
    (collectScores_cons v101202201 (collectScores_cons v011202201 (collectScores_cons v001212201 (collectScores_cons v001202211 collectScores_nil)))) rfl

theorem v001202021 : readBoardAux P2 6 (⟨N0, N0, N1, N2, N0, N2, N0, N2, N1⟩ : Grid) P1 = some (ZM, some M11) :=
  readBoardAux_step P2 5 (⟨N0, N0, N1, N2, N0, N2, N0, N2, N1⟩ : Grid) P1 [M00, M01, M11, M20] rfl rfl
    (collectScores_cons v101202021 (collectScores_cons v011202021 (collectScores_cons v001212021 (collectScores_cons v001202121 collectScores_nil)))) rfl

theorem v001202001 : readBoardAux P2 7 (⟨N0, N0, N1, N2, N0, N2, N0, N0, N1⟩ : Grid) P2 = some (ZP, some M00) :=
  readBoardAux_step P2 6 (⟨N0, N0, N1, N2, N0, N2, N0, N0, N1⟩ : Grid) P2 [M00, M01, M11, M20, M21] rfl rfl
    (collectScores_cons v201202001 (collectScores_cons v021202001 (collectScores_cons t001222001 (collectScores_cons v001202201 (collectScores_cons v001202021 collectScores_nil))))) rfl

theorem v001202000 : readBoardAux P2 8 (⟨N0, N0, N1, N2, N0, N2, N0, N0, N0⟩ : Grid) P1 = some (ZM, some M11) :=
  readBoardAux_step P2 7 (⟨N0, N0, N1, N2, N0, N2, N0, N0, N0⟩ : Grid) P1 [M00, M01, M11, M20, M21, M22] rfl rfl
    (collectScores_cons v101202000 (collectScores_cons v011202000 (collectScores_cons v001212000 (collectScores_cons v001202100 (collectScores_cons v001202010 (collectScores_cons v001202001 collectScores_nil)))))) rfl

theorem t001211222 : readBoardAux P2 4 (⟨N0, N0, N1, N2, N1, N1, N2, N2, N2⟩ : Grid) P1 = some (ZP, none) :=
  rfl

theorem v001211220 : readBoardAux P2 5 (⟨N0, N0, N1, N2, N1, N1, N2, N2, N0⟩ : Grid) P2 = some (ZP, some M00) :=
  readBoardAux_step P2 4 (⟨N0, N0, N1, N2, N1, N1, N2, N2, N0⟩ : Grid) P2 [M00, M01, M22] rfl rfl
    (collectScores_cons t201211220 (collectScores_cons v021211220 (collectScores_cons t001211222 collectScores_nil))) rfl

theorem v001210221 : readBoardAux P2 5 (⟨N0, N0, N1, N2, N1, N0, N2, N2, N1⟩ : Grid) P2 = some (ZP, some M00) :=
  readBoardAux_step P2 4 (⟨N0, N0, N1, N2, N1, N0, N2, N2, N1⟩ : Grid) P2 [M00, M01, M12] rfl rfl
    (collectScores_cons t201210221 (collectScores_cons v021210221 (collectScores_cons v001212221 collectScores_nil))) rfl

theorem v001210220 : readBoardAux P2 6 (⟨N0, N0, N1, N2, N1, N0, N2, N2, N0⟩ : Grid) P1 = some (ZP, some M00) :=
  readBoardAux_step P2 5 (⟨N0, N0, N1, N2, N1, N0, N2, N2, N0⟩ : Grid) P1 [M00, M01, M12, M22] rfl rfl
    (collectScores_cons v101210220 (collectScores_cons v011210220 (collectScores_cons v001211220 (collectScores_cons v001210221 collectScores_nil)))) rfl

theorem v001211202 : readBoardAux P2 5 (⟨N0, N0, N1, N2, N1, N1, N2, N0, N2⟩ : Grid) P2 = some (ZP, some M00) :=
  readBoardAux_step P2 4 (⟨N0, N0, N1, N2, N1, N1, N2, N0, N2⟩ : Grid) P2 [M00, M01, M21] rfl rfl
    (collectScores_cons t201211202 (collectScores_cons v021211202 (collectScores_cons t001211222 collectScores_nil))) rfl

theorem v001210212 : readBoardAux P2 5 (⟨N0, N0, N1, N2, N1, N0, N2, N1, N2⟩ : Grid) P2 = some (ZP, some M00) :=
  readBoardAux_step P2 4 (⟨N0, N0, N1, N2, N1, N0, N2, N1, N2⟩ : Grid) P2 [M00, M01, M12] rfl rfl
    (collectScores_cons t201210212 (collectScores_cons v021210212 (collectScores_cons v001212212 collectScores_nil))) rfl

theorem v001210202 : readBoardAux P2 6 (⟨N0, N0, N1, N2, N1, N0, N2, N0, N2⟩ : Grid) P1 = some (ZP, some M00) :=
  readBoardAux_step P2 5 (⟨N0, N0, N1, N2, N1, N0, N2, N0, N2⟩ : Grid) P1 [M00, M01, M12, M21] rfl rfl
    (collectScores_cons v101210202 (collectScores_cons v011210202 (collectScores_cons v001211202 (collectScores_cons v001210212 collectScores_nil)))) rfl

theorem v001210200 : readBoardAux P2 7 (⟨N0, N0, N1, N2, N1, N0, N2, N0, N0⟩ : Grid) P2 = some (ZP, some M00) :=
  readBoardAux_step P2 6 (⟨N0, N0, N1, N2, N1, N0, N2, N0, N0⟩ : Grid) P2 [M00, M01, M12, M21, M22] rfl rfl
    (collectScores_cons t201210200 (collectScores_cons v021210200 (collectScores_cons v001212200 (collectScores_cons v001210220 (collectScores_cons v001210202 collectScores_nil))))) rfl

theorem t001201221 : readBoardAux P2 5 (⟨N0, N0, N1, N2, N0, N1, N2, N2, N1⟩ : Grid) P2 = some (ZM, none) :=
  rfl

theorem v001201220 : readBoardAux P2 6 (⟨N0, N0, N1, N2, N0, N1, N2, N2, N0⟩ : Grid) P1 = some (ZM, some M22) :=
  readBoardAux_step P2 5 (⟨N0, N0, N1, N2, N0, N1, N2, N2, N0⟩ : Grid) P1 [M00, M01, M11, M22] rfl rfl
    (collectScores_cons v101201220 (collectScores_cons v011201220 (collectScores_cons v001211220 (collectScores_cons t001201221 collectScores_nil)))) rfl

theorem v001201212 : readBoardAux P2 5 (⟨N0, N0, N1, N2, N0, N1, N2, N1, N2⟩ : Grid) P2 = some (ZP, some M00) :=
  readBoardAux_step P2 4 (⟨N0, N0, N1, N2, N0, N1, N2, N1, N2⟩ : Grid) P2 [M00, M01, M11] rfl rfl
    (collectScores_cons t201201212 (collectScores_cons v021201212 (collectScores_cons v001221212 collectScores_nil))) rfl

theorem v001201202 : readBoardAux P2 6 (⟨N0, N0, N1, N2, N0, N1, N2, N0, N2⟩ : Grid) P1 = some (ZP, some M00) :=
  readBoardAux_step P2 5 (⟨N0, N0, N1, N2, N0, N1, N2, N0, N2⟩ : Grid) P1 [M00, M01, M11, M21] rfl rfl
    (collectScores_cons v101201202 (collectScores_cons v011201202 (collectScores_cons v001211202 (collectScores_cons v001201212 collectScores_nil)))) rfl

theorem v001201200 : readBoardAux P2 7 (⟨N0, N0, N1, N2, N0, N1, N2, N0, N0⟩ : Grid) P2 = some (ZP, some M00) :=
  readBoardAux_step P2 6 (⟨N0, N0, N1, N2, N0, N1, N2, N0, N0⟩ : Grid) P2 [M00, M01, M11, M21, M22] rfl rfl
    (collectScores_cons t201201200 (collectScores_cons v021201200 (collectScores_cons v001221200 (collectScores_cons v001201220 (collectScores_cons v001201202 collectScores_nil))))) rfl

theorem v001200212 : readBoardAux P2 6 (⟨N0, N0, N1, N2, N0, N0, N2, N1, N2⟩ : Grid) P1 = some (Z0, some M00) :=
  readBoardAux_step P2 5 (⟨N0, N0, N1, N2, N0, N0, N2, N1, N2⟩ : Grid) P1 [M00, M01, M11, M12] rfl rfl
    (collectScores_cons v101200212 (collectScores_cons v011200212 (collectScores_cons v001210212 (collectScores_cons v001201212 collectScores_nil)))) rfl

theorem v001200210 : readBoardAux P2 7 (⟨N0, N0, N1, N2, N0, N0, N2, N1, N0⟩ : Grid) P2 = some (ZP, some M00) :=
  readBoardAux_step P2 6 (⟨N0, N0, N1, N2, N0, N0, N2, N1, N0⟩ : Grid) P2 [M00, M01, M11, M12, M22] rfl rfl
    (collectScores_cons t201200210 (collectScores_cons v021200210 (collectScores_cons v001220210 (collectScores_cons v001202210 (collectScores_cons v001200212 collectScores_nil))))) rfl

theorem v001200221 : readBoardAux P2 6 (⟨N0, N0, N1, N2, N0, N0, N2, N2, N1⟩ : Grid) P1 = some (ZM, some M00) :=
  readBoardAux_step P2 5 (⟨N0, N0, N1, N2, N0, N0, N2, N2, N1⟩ : Grid) P1 [M00, M01, M11, M12] rfl rfl
    (collectScores_cons v101200221 (collectScores_cons v011200221 (collectScores_cons v001210221 (collectScores_cons t001201221 collectScores_nil)))) rfl

theorem v001200201 : readBoardAux P2 7 (⟨N0, N0, N1, N2, N0, N0, N2, N0, N1⟩ : Grid) P2 = some (ZP, some M00) :=
  readBoardAux_step P2 6 (⟨N0, N0, N1, N2, N0, N0, N2, N0, N1⟩ : Grid) P2 [M00, M01, M11, M12, M21] rfl rfl
    (collectScores_cons t201200201 (collectScores_cons v021200201 (collectScores_cons v001220201 (collectScores_cons v001202201 (collectScores_cons v001200221 collectScores_nil))))) rfl

theorem v001200200 : readBoardAux P2 8 (⟨N0, N0, N1, N2, N0, N0, N2, N0, N0⟩ : Grid) P1 = some (ZM, some M00) :=
  readBoardAux_step P2 7 (⟨N0, N0, N1, N2, N0, N0, N2, N0, N0⟩ : Grid) P1 [M00, M01, M11, M12, M21, M22] rfl rfl
    (collectScores_cons v101200200 (collectScores_cons v011200200 (collectScores_cons v001210200 (collectScores_cons v001201200 (collectScores_cons v001200210 (collectScores_cons v001200201 collectScores_nil)))))) rfl

theorem v001211022 : readBoardAux P2 5 (⟨N0, N0, N1, N2, N1, N1, N0, N2, N2⟩ : Grid) P2 = some (ZP, some M20) :=
  readBoardAux_step P2 4 (⟨N0, N0, N1, N2, N1, N1, N0, N2, N2⟩ : Grid) P2 [M00, M01, M20] rfl rfl
    (collectScores_cons v201211022 (collectScores_cons v021211022 (collectScores_cons t001211222 collectScores_nil))) rfl

theorem t001210122 : readBoardAux P2 5 (⟨N0, N0, N1, N2, N1, N0, N1, N2, N2⟩ : Grid) P2 = some (ZM, none) :=
  rfl

theorem v001210022 : readBoardAux P2 6 (⟨N0, N0, N1, N2, N1, N0, N0, N2, N2⟩ : Grid) P1 = some (ZM, some M20) :=
  readBoardAux_step P2 5 (⟨N0, N0, N1, N2, N1, N0, N0, N2, N2⟩ : Grid) P1 [M00, M01, M12, M20] rfl rfl
    (collectScores_cons v101210022 (collectScores_cons v011210022 (collectScores_cons v001211022 (collectScores_cons t001210122 collectScores_nil)))) rfl

theorem v001210020 : readBoardAux P2 7 (⟨N0, N0, N1, N2, N1, N0, N0, N2, N0⟩ : Grid) P2 = some (ZP, some M20) :=
  readBoardAux_step P2 6 (⟨N0, N0, N1, N2, N1, N0, N0, N2, N0⟩ : Grid) P2 [M00, M01, M12, M20, M22] rfl rfl
    (collectScores_cons v201210020 (collectScores_cons v021210020 (collectScores_cons v001212020 (collectScores_cons v001210220 (collectScores_cons v001210022 collectScores_nil))))) rfl

theorem v001201122 : readBoardAux P2 5 (⟨N0, N0, N1, N2, N0, N1, N1, N2, N2⟩ : Grid) P2 = some (ZP, some M11) :=
  readBoardAux_step P2 4 (⟨N0, N0, N1, N2, N0, N1, N1, N2, N2⟩ : Grid) P2 [M00, M01, M11] rfl rfl
    (collectScores_cons v201201122 (collectScores_cons v021201122 (collectScores_cons v001221122 collectScores_nil))) rfl

theorem v001201022 : readBoardAux P2 6 (⟨N0, N0, N1, N2, N0, N1, N0, N2, N2⟩ : Grid) P1 = some (ZP, some M00) :=
  readBoardAux_step P2 5 (⟨N0, N0, N1, N2, N0, N1, N0, N2, N2⟩ : Grid) P1 [M00, M01, M11, M20] rfl rfl
    (collectScores_cons v101201022 (collectScores_cons v011201022 (collectScores_cons v001211022 (collectScores_cons v001201122 collectScores_nil)))) rfl

theorem v001201020 : readBoardAux P2 7 (⟨N0, N0, N1, N2, N0, N1, N0, N2, N0⟩ : Grid) P2 = some (ZP, some M22) :=
  readBoardAux_step P2 6 (⟨N0, N0, N1, N2, N0, N1, N0, N2, N0⟩ : Grid) P2 [M00, M01, M11, M20, M22] rfl rfl
    (collectScores_cons v201201020 (collectScores_cons v021201020 (collectScores_cons v001221020 (collectScores_cons v001201220 (collectScores_cons v001201022 collectScores_nil))))) rfl

theorem v001200122 : readBoardAux P2 6 (⟨N0, N0, N1, N2, N0, N0, N1, N2, N2⟩ : Grid) P1 = some (ZM, some M00) :=
  readBoardAux_step P2 5 (⟨N0, N0, N1, N2, N0, N0, N1, N2, N2⟩ : Grid) P1 [M00, M01, M11, M12] rfl rfl
    (collectScores_cons v101200122 (collectScores_cons v011200122 (collectScores_cons t001210122 (collectScores_cons v001201122 collectScores_nil)))) rfl

theorem v001200120 : readBoardAux P2 7 (⟨N0, N0, N1, N2, N0, N0, N1, N2, N0⟩ : Grid) P2 = some (ZP, some M11) :=
  readBoardAux_step P2 6 (⟨N0, N0, N1, N2, N0, N0, N1, N2, N0⟩ : Grid) P2 [M00, M01, M11, M12, M22] rfl rfl
    (collectScores_cons v201200120 (collectScores_cons v021200120 (collectScores_cons v001220120 (collectScores_cons v001202120 (collectScores_cons v001200122 collectScores_nil))))) rfl

theorem v001200021 : readBoardAux P2 7 (⟨N0, N0, N1, N2, N0, N0, N0, N2, N1⟩ : Grid) P2 = some (ZM, some M00) :=
  readBoardAux_step P2 6 (⟨N0, N0, N1, N2, N0, N0, N0, N2, N1⟩ : Grid) P2 [M00, M01, M11, M12, M20] rfl rfl
    (collectScores_cons v201200021 (collectScores_cons v021200021 (collectScores_cons v001220021 (collectScores_cons v001202021 (collectScores_cons v001200221 collectScores_nil))))) rfl

theorem v001200020 : readBoardAux P2 8 (⟨N0, N0, N1, N2, N0, N0, N0, N2, N0⟩ : Grid) P1 = some (ZM, some M00) :=
  readBoardAux_step P2 7 (⟨N0, N0, N1, N2, N0, N0, N0, N2, N0⟩ : Grid) P1 [M00, M01, M11, M12, M20, M22] rfl rfl
    (collectScores_cons v101200020 (collectScores_cons v011200020 (collectScores_cons v001210020 (collectScores_cons v001201020 (collectScores_cons v001200120 (collectScores_cons v001200021 collectScores_nil)))))) rfl

theorem v001210002 : readBoardAux P2 7 (⟨N0, N0, N1, N2, N1, N0, N0, N0, N2⟩ : Grid) P2 = some (ZP, some M20) :=
  readBoardAux_step P2 6 (⟨N0, N0, N1, N2, N1, N0, N0, N0, N2⟩ : Grid) P2 [M00, M01, M12, M20, M21] rfl rfl
    (collectScores_cons v201210002 (collectScores_cons v021210002 (collectScores_cons v001212002 (collectScores_cons v001210202 (collectScores_cons v001210022 collectScores_nil))))) rfl

theorem v001201002 : readBoardAux P2 7 (⟨N0, N0, N1, N2, N0, N1, N0, N0, N2⟩ : Grid) P2 = some (ZP, some M00) :=
  readBoardAux_step P2 6 (⟨N0, N0, N1, N2, N0, N1, N0, N0, N2⟩ : Grid) P2 [M00, M01, M11, M20, M21] rfl rfl
    (collectScores_cons v201201002 (collectScores_cons v021201002 (collectScores_cons v001221002 (collectScores_cons v001201202 (collectScores_cons v001201022 collectScores_nil))))) rfl

theorem v001200102 : readBoardAux P2 7 (⟨N0, N0, N1, N2, N0, N0, N1, N0, N2⟩ : Grid) P2 = some (ZP, some M11) :=
  readBoardAux_step P2 6 (⟨N0, N0, N1, N2, N0, N0, N1, N0, N2⟩ : Grid) P2 [M00, M01, M11, M12, M21] rfl rfl
    (collectScores_cons v201200102 (collectScores_cons v021200102 (collectScores_cons v001220102 (collectScores_cons v001202102 (collectScores_cons v001200122 collectScores_nil))))) rfl

theorem v001200012 : readBoardAux P2 7 (⟨N0, N0, N1, N2, N0, N0, N0, N1, N2⟩ : Grid) P2 = some (ZP, some M00) :=
  readBoardAux_step P2 6 (⟨N0, N0, N1, N2, N0, N0, N0, N1, N2⟩ : Grid) P2 [M00, M01, M11, M12, M20] rfl rfl
    (collectScores_cons v201200012 (collectScores_cons v021200012 (collectScores_cons v001220012 (collectScores_cons v001202012 (collectScores_cons v001200212 collectScores_nil))))) rfl

theorem v001200002 : readBoardAux P2 8 (⟨N0, N0, N1, N2, N0, N0, N0, N0, N2⟩ : Grid) P1 = some (Z0, some M00) :=
  readBoardAux_step P2 7 (⟨N0, N0, N1, N2, N0, N0, N0, N0, N2⟩ : Grid) P1 [M00, M01, M11, M12, M20, M21] rfl rfl
    (collectScores_cons v101200002 (collectScores_cons v011200002 (collectScores_cons v001210002 (collectScores_cons v001201002 (collectScores_cons v001200102 (collectScores_cons v001200012 collectScores_nil)))))) rfl

theorem v001200000 : readBoardAux P2 9 (⟨N0, N0, N1, N2, N0, N0, N0, N0, N0⟩ : Grid) P2 = some (ZP, some M00) :=
  readBoardAux_step P2 8 (⟨N0, N0, N1, N2, N0, N0, N0, N0, N0⟩ : Grid) P2 [M00, M01, M11, M12, M20, M21, M22] rfl rfl
    (collectScores_cons v201200000 (collectScores_cons v021200000 (collectScores_cons v001220000 (collectScores_cons v001202000 (collectScores_cons v001200200 (collectScores_cons v001200020 (collectScores_cons v001200002 collectScores_nil))))))) rfl

theorem v000212121 : readBoardAux P2 5 (⟨N0, N0, N0, N2, N1, N2, N1, N2, N1⟩ : Grid) P2 = some (ZM, some M00) :=
  readBoardAux_step P2 4 (⟨N0, N0, N0, N2, N1, N2, N1, N2, N1⟩ : Grid) P2 [M00, M01, M02] rfl rfl
    (collectScores_cons v200212121 (collectScores_cons v020212121 (collectScores_cons v002212121 collectScores_nil))) rfl

theorem v000212120 : readBoardAux P2 6 (⟨N0, N0, N0, N2, N1, N2, N1, N2, N0⟩ : Grid) P1 = some (ZM, some M00) :=
  readBoardAux_step P2 5 (⟨N0, N0, N0, N2, N1, N2, N1, N2, N0⟩ : Grid) P1 [M00, M01, M02, M22] rfl rfl
    (collectScores_cons v100212120 (collectScores_cons v010212120 (collectScores_cons t001212120 (collectScores_cons v000212121 collectScores_nil)))) rfl

theorem v000212112 : readBoardAux P2 5 (⟨N0, N0, N0, N2, N1, N2, N1, N1, N2⟩ : Grid) P2 = some (ZP, some M02) :=
  readBoardAux_step P2 4 (⟨N0, N0, N0, N2, N1, N2, N1, N1, N2⟩ : Grid) P2 [M00, M01, M02] rfl rfl
    (collectScores_cons v200212112 (collectScores_cons v020212112 (collectScores_cons t002212112 collectScores_nil))) rfl

theorem v000212102 : readBoardAux P2 6 (⟨N0, N0, N0, N2, N1, N2, N1, N0, N2⟩ : Grid) P1 = some (ZM, some M02) :=
  readBoardAux_step P2 5 (⟨N0, N0, N0, N2, N1, N2, N1, N0, N2⟩ : Grid) P1 [M00, M01, M02, M21] rfl rfl
    (collectScores_cons v100212102 (collectScores_cons v010212102 (collectScores_cons t001212102 (collectScores_cons v000212112 collectScores_nil)))) rfl

theorem v000212100 : readBoardAux P2 7 (⟨N0, N0, N0, N2, N1, N2, N1, N0, N0⟩ : Grid) P2 = some (ZM, some M00) :=
  readBoardAux_step P2 6 (⟨N0, N0, N0, N2, N1, N2, N1, N0, N0⟩ : Grid) P2 [M00, M01, M02, M21, M22] rfl rfl
    (collectScores_cons v200212100 (collectScores_cons v020212100 (collectScores_cons v002212100 (collectScores_cons v000212120 (collectScores_cons v000212102 collectScores_nil))))) rfl

theorem v000212211 : readBoardAux P2 5 (⟨N0, N0, N0, N2, N1, N2, N2, N1, N1⟩ : Grid) P2 = some (ZP, some M00) :=
  readBoardAux_step P2 4 (⟨N0, N0, N0, N2, N1, N2, N2, N1, N1⟩ : Grid) P2 [M00, M01, M02] rfl rfl
    (collectScores_cons t200212211 (collectScores_cons v020212211 (collectScores_cons v002212211 collectScores_nil))) rfl

theorem v000212210 : readBoardAux P2 6 (⟨N0, N0, N0, N2, N1, N2, N2, N1, N0⟩ : Grid) P1 = some (ZM, some M00) :=
  readBoardAux_step P2 5 (⟨N0, N0, N0, N2, N1, N2, N2, N1, N0⟩ : Grid) P1 [M00, M01, M02, M22] rfl rfl
    (collectScores_cons v100212210 (collectScores_cons t010212210 (collectScores_cons v001212210 (collectScores_cons v000212211 collectScores_nil)))) rfl

theorem v000212012 : readBoardAux P2 6 (⟨N0, N0, N0, N2, N1, N2, N0, N1, N2⟩ : Grid) P1 = some (ZM, some M01) :=
  readBoardAux_step P2 5 (⟨N0, N0, N0, N2, N1, N2, N0, N1, N2⟩ : Grid) P1 [M00, M01, M02, M20] rfl rfl
    (collectScores_cons v100212012 (collectScores_cons t010212012 (collectScores_cons v001212012 (collectScores_cons v000212112 collectScores_nil)))) rfl

theorem v000212010 : readBoardAux P2 7 (⟨N0, N0, N0, N2, N1, N2, N0, N1, N0⟩ : Grid) P2 = some (ZM, some M00) :=
  readBoardAux_step P2 6 (⟨N0, N0, N0, N2, N1, N2, N0, N1, N0⟩ : Grid) P2 [M00, M01, M02, M20, M22] rfl rfl
    (collectScores_cons v200212010 (collectScores_cons v020212010 (collectScores_cons v002212010 (collectScores_cons v000212210 (collectScores_cons v000212012 collectScores_nil))))) rfl

theorem v000212201 : readBoardAux P2 6 (⟨N0, N0, N0, N2, N1, N2, N2, N0, N1⟩ : Grid) P1 = some (ZM, some M00) :=
  readBoardAux_step P2 5 (⟨N0, N0, N0, N2, N1, N2, N2, N0, N1⟩ : Grid) P1 [M00, M01, M02, M21] rfl rfl
    (collectScores_cons t100212201 (collectScores_cons v010212201 (collectScores_cons v001212201 (collectScores_cons v000212211 collectScores_nil)))) rfl

theorem v000212021 : readBoardAux P2 6 (⟨N0, N0, N0, N2, N1, N2, N0, N2, N1⟩ : Grid) P1 = some (ZM, some M00) :=
  readBoardAux_step P2 5 (⟨N0, N0, N0, N2, N1, N2, N0, N2, N1⟩ : Grid) P1 [M00, M01, M02, M20] rfl rfl
    (collectScores_cons t100212021 (collectScores_cons v010212021 (collectScores_cons v001212021 (collectScores_cons v000212121 collectScores_nil)))) rfl

theorem v000212001 : readBoardAux P2 7 (⟨N0, N0, N0, N2, N1, N2, N0, N0, N1⟩ : Grid) P2 = some (ZM, some M00) :=
  readBoardAux_step P2 6 (⟨N0, N0, N0, N2, N1, N2, N0, N0, N1⟩ : Grid) P2 [M00, M01, M02, M20, M21] rfl rfl
    (collectScores_cons v200212001 (collectScores_cons v020212001 (collectScores_cons v002212001 (collectScores_cons v000212201 (collectScores_cons v000212021 collectScores_nil))))) rfl

theorem v000212000 : readBoardAux P2 8 (⟨N0, N0, N0, N2, N1, N2, N0, N0, N0⟩ : Grid) P1 = some (ZM, some M00) :=
  readBoardAux_step P2 7 (⟨N0, N0, N0, N2, N1, N2, N0, N0, N0⟩ : Grid) P1 [M00, M01, M02, M20, M21, M22] rfl rfl
    (collectScores_cons v100212000 (collectScores_cons v010212000 (collectScores_cons v001212000 (collectScores_cons v000212100 (collectScores_cons v000212010 (collectScores_cons v000212001 collectScores_nil)))))) rfl

theorem v000211221 : readBoardAux P2 5 (⟨N0, N0, N0, N2, N1, N1, N2, N2, N1⟩ : Grid) P2 = some (ZP, some M00) :=
  readBoardAux_step P2 4 (⟨N0, N0, N0, N2, N1, N1, N2, N2, N1⟩ : Grid) P2 [M00, M01, M02] rfl rfl
    (collectScores_cons t200211221 (collectScores_cons v020211221 (collectScores_cons v002211221 collectScores_nil))) rfl

theorem v000211220 : readBoardAux P2 6 (⟨N0, N0, N0, N2, N1, N1, N2, N2, N0⟩ : Grid) P1 = some (ZP, some M00) :=
  readBoardAux_step P2 5 (⟨N0, N0, N0, N2, N1, N1, N2, N2, N0⟩ : Grid) P1 [M00, M01, M02, M22] rfl rfl
    (collectScores_cons v100211220 (collectScores_cons v010211220 (collectScores_cons v001211220 (collectScores_cons v000211221 collectScores_nil)))) rfl

theorem v000211212 : readBoardAux P2 5 (⟨N0, N0, N0, N2, N1, N1, N2, N1, N2⟩ : Grid) P2 = some (ZP, some M00) :=
  readBoardAux_step P2 4 (⟨N0, N0, N0, N2, N1, N1, N2, N1, N2⟩ : Grid) P2 [M00, M01, M02] rfl rfl
    (collectScores_cons t200211212 (collectScores_cons v020211212 (collectScores_cons v002211212 collectScores_nil))) rfl

theorem v000211202 : readBoardAux P2 6 (⟨N0, N0, N0, N2, N1, N1, N2, N0, N2⟩ : Grid) P1 = some (ZP, some M00) :=
  readBoardAux_step P2 5 (⟨N0, N0, N0, N2, N1, N1, N2, N0, N2⟩ : Grid) P1 [M00, M01, M02, M21] rfl rfl
    (collectScores_cons v100211202 (collectScores_cons v010211202 (collectScores_cons v001211202 (collectScores_cons v000211212 collectScores_nil)))) rfl

theorem v000211200 : readBoardAux P2 7 (⟨N0, N0, N0, N2, N1, N1, N2, N0, N0⟩ : Grid) P2 = some (ZP, some M00) :=
  readBoardAux_step P2 6 (⟨N0, N0, N0, N2, N1, N1, N2, N0, N0⟩ : Grid) P2 [M00, M01, M02, M21, M22] rfl rfl
    (collectScores_cons t200211200 (collectScores_cons v020211200 (collectScores_cons v002211200 (collectScores_cons v000211220 (collectScores_cons v000211202 collectScores_nil))))) rfl

theorem v000210212 : readBoardAux P2 6 (⟨N0, N0, N0, N2, N1, N0, N2, N1, N2⟩ : Grid) P1 = some (ZM, some M01) :=
  readBoardAux_step P2 5 (⟨N0, N0, N0, N2, N1, N0, N2, N1, N2⟩ : Grid) P1 [M00, M01, M02, M12] rfl rfl
    (collectScores_cons v100210212 (collectScores_cons t010210212 (collectScores_cons v001210212 (collectScores_cons v000211212 collectScores_nil)))) rfl

theorem v000210210 : readBoardAux P2 7 (⟨N0, N0, N0, N2, N1, N0, N2, N1, N0⟩ : Grid) P2 = some (ZP, some M00) :=
  readBoardAux_step P2 6 (⟨N0, N0, N0, N2, N1, N0, N2, N1, N0⟩ : Grid) P2 [M00, M01, M02, M12, M22] rfl rfl
    (collectScores_cons t200210210 (collectScores_cons v020210210 (collectScores_cons v002210210 (collectScores_cons v000212210 (collectScores_cons v000210212 collectScores_nil))))) rfl

theorem v000210221 : readBoardAux P2 6 (⟨N0, N0, N0, N2, N1, N0, N2, N2, N1⟩ : Grid) P1 = some (ZM, some M00) :=
  readBoardAux_step P2 5 (⟨N0, N0, N0, N2, N1, N0, N2, N2, N1⟩ : Grid) P1 [M00, M01, M02, M12] rfl rfl
    (collectScores_cons t100210221 (collectScores_cons v010210221 (collectScores_cons v001210221 (collectScores_cons v000211221 collectScores_nil)))) rfl

theorem v000210201 : readBoardAux P2 7 (⟨N0, N0, N0, N2, N1, N0, N2, N0, N1⟩ : Grid) P2 = some (ZP, some M00) :=
  readBoardAux_step P2 6 (⟨N0, N0, N0, N2, N1, N0, N2, N0, N1⟩ : Grid) P2 [M00, M01, M02, M12, M21] rfl rfl
    (collectScores_cons t200210201 (collectScores_cons v020210201 (collectScores_cons v002210201 (collectScores_cons v000212201 (collectScores_cons v000210221 collectScores_nil))))) rfl

theorem v000210200 : readBoardAux P2 8 (⟨N0, N0, N0, N2, N1, N0, N2, N0, N0⟩ : Grid) P1 = some (Z0, some M00) :=
  readBoardAux_step P2 7 (⟨N0, N0, N0, N2, N1, N0, N2, N0, N0⟩ : Grid) P1 [M00, M01, M02, M12, M21, M22] rfl rfl
    (collectScores_cons v100210200 (collectScores_cons v010210200 (collectScores_cons v001210200 (collectScores_cons v000211200 (collectScores_cons v000210210 (collectScores_cons v000210201 collectScores_nil)))))) rfl

theorem v000211122 : readBoardAux P2 5 (⟨N0, N0, N0, N2, N1, N1, N1, N2, N2⟩ : Grid) P2 = some (Z0, some M02) :=
  readBoardAux_step P2 4 (⟨N0, N0, N0, N2, N1, N1, N1, N2, N2⟩ : Grid) P2 [M00, M01, M02] rfl rfl
    (collectScores_cons v200211122 (collectScores_cons v020211122 (collectScores_cons v002211122 collectScores_nil))) rfl

theorem v000211022 : readBoardAux P2 6 (⟨N0, N0, N0, N2, N1, N1, N0, N2, N2⟩ : Grid) P1 = some (Z0, some M20) :=
  readBoardAux_step P2 5 (⟨N0, N0, N0, N2, N1, N1, N0, N2, N2⟩ : Grid) P1 [M00, M01, M02, M20] rfl rfl
    (collectScores_cons v100211022 (collectScores_cons v010211022 (collectScores_cons v001211022 (collectScores_cons v000211122 collectScores_nil)))) rfl

theorem v000211020 : readBoardAux P2 7 (⟨N0, N0, N0, N2, N1, N1, N0, N2, N0⟩ : Grid) P2 = some (ZP, some M20) :=
  readBoardAux_step P2 6 (⟨N0, N0, N0, N2, N1, N1, N0, N2, N0⟩ : Grid) P2 [M00, M01, M02, M20, M22] rfl rfl
    (collectScores_cons v200211020 (collectScores_cons v020211020 (collectScores_cons v002211020 (collectScores_cons v000211220 (collectScores_cons v000211022 collectScores_nil))))) rfl

theorem v000210122 : readBoardAux P2 6 (⟨N0, N0, N0, N2, N1, N0, N1, N2, N2⟩ : Grid) P1 = some (ZM, some M02) :=
  readBoardAux_step P2 5 (⟨N0, N0, N0, N2, N1, N0, N1, N2, N2⟩ : Grid) P1 [M00, M01, M02, M12] rfl rfl
    (collectScores_cons v100210122 (collectScores_cons v010210122 (collectScores_cons t001210122 (collectScores_cons v000211122 collectScores_nil)))) rfl

theorem v000210120 : readBoardAux P2 7 (⟨N0, N0, N0, N2, N1, N0, N1, N2, N0⟩ : Grid) P2 = some (Z0, some M02) :=
  readBoardAux_step P2 6 (⟨N0, N0, N0, N2, N1, N0, N1, N2, N0⟩ : Grid) P2 [M00, M01, M02, M12, M22] rfl rfl
    (collectScores_cons v200210120 (collectScores_cons v020210120 (collectScores_cons v002210120 (collectScores_cons v000212120 (collectScores_cons v000210122 collectScores_nil))))) rfl

theorem v000210021 : readBoardAux P2 7 (⟨N0, N0, N0, N2, N1, N0, N0, N2, N1⟩ : Grid) P2 = some (Z0, some M00) :=
  readBoardAux_step P2 6 (⟨N0, N0, N0, N2, N1, N0, N0, N2, N1⟩ : Grid) P2 [M00, M01, M02, M12, M20] rfl rfl
    (collectScores_cons v200210021 (collectScores_cons v020210021 (collectScores_cons v002210021 (collectScores_cons v000212021 (collectScores_cons v000210221 collectScores_nil))))) rfl

theorem v000210020 : readBoardAux P2 8 (⟨N0, N0, N0, N2, N1, N0, N0, N2, N0⟩ : Grid) P1 = some (Z0, some M00) :=
  readBoardAux_step P2 7 (⟨N0, N0, N0, N2, N1, N0, N0, N2, N0⟩ : Grid) P1 [M00, M01, M02, M12, M20, M22] rfl rfl
    (collectScores_cons v100210020 (collectScores_cons v010210020 (collectScores_cons v001210020 (collectScores_cons v000211020 (collectScores_cons v000210120 (collectScores_cons v000210021 collectScores_nil)))))) rfl

theorem v000211002 : readBoardAux P2 7 (⟨N0, N0, N0, N2, N1, N1, N0, N0, N2⟩ : Grid) P2 = some (ZP, some M20) :=
  readBoardAux_step P2 6 (⟨N0, N0, N0, N2, N1, N1, N0, N0, N2⟩ : Grid) P2 [M00, M01, M02, M20, M21] rfl rfl
    (collectScores_cons v200211002 (collectScores_cons v020211002 (collectScores_cons v002211002 (collectScores_cons v000211202 (collectScores_cons v000211022 collectScores_nil))))) rfl

theorem v000210102 : readBoardAux P2 7 (⟨N0, N0, N0, N2, N1, N0, N1, N0, N2⟩ : Grid) P2 = some (Z0, some M02) :=
  readBoardAux_step P2 6 (⟨N0, N0, N0, N2, N1, N0, N1, N0, N2⟩ : Grid) P2 [M00, M01, M02, M12, M21] rfl rfl
    (collectScores_cons v200210102 (collectScores_cons v020210102 (collectScores_cons v002210102 (collectScores_cons v000212102 (collectScores_cons v000210122 collectScores_nil))))) rfl

theorem v000210012 : readBoardAux P2 7 (⟨N0, N0, N0, N2, N1, N0, N0, N1, N2⟩ : Grid) P2 = some (Z0, some M01) :=
  readBoardAux_step P2 6 (⟨N0, N0, N0, N2, N1, N0, N0, N1, N2⟩ : Grid) P2 [M00, M01, M02, M12, M20] rfl rfl
    (collectScores_cons v200210012 (collectScores_cons v020210012 (collectScores_cons v002210012 (collectScores_cons v000212012 (collectScores_cons v000210212 collectScores_nil))))) rfl

theorem v000210002 : readBoardAux P2 8 (⟨N0, N0, N0, N2, N1, N0, N0, N0, N2⟩ : Grid) P1 = some (Z0, some M00) :=
  readBoardAux_step P2 7 (⟨N0, N0, N0, N2, N1, N0, N0, N0, N2⟩ : Grid) P1 [M00, M01, M02, M12, M20, M21] rfl rfl
    (collectScores_cons v100210002 (collectScores_cons v010210002 (collectScores_cons v001210002 (collectScores_cons v000211002 (collectScores_cons v000210102 (collectScores_cons v000210012 collectScores_nil)))))) rfl

theorem v000210000 : readBoardAux P2 9 (⟨N0, N0, N0, N2, N1, N0, N0, N0, N0⟩ : Grid) P2 = some (Z0, some M00) :=
  readBoardAux_step P2 8 (⟨N0, N0, N0, N2, N1, N0, N0, N0, N0⟩ : Grid) P2 [M00, M01, M02, M12, M20, M21, M22] rfl rfl
    (collectScores_cons v200210000 (collectScores_cons v020210000 (collectScores_cons v002210000 (collectScores_cons v000212000 (collectScores_cons v000210200 (collectScores_cons v000210020 (collectScores_cons v000210002 collectScores_nil))))))) rfl

theorem v000221121 : readBoardAux P2 5 (⟨N0, N0, N0, N2, N2, N1, N1, N2, N1⟩ : Grid) P2 = some (ZP, some M01) :=
  readBoardAux_step P2 4 (⟨N0, N0, N0, N2, N2, N1, N1, N2, N1⟩ : Grid) P2 [M00, M01, M02] rfl rfl
    (collectScores_cons v200221121 (collectScores_cons t020221121 (collectScores_cons v002221121 collectScores_nil))) rfl

theorem v000221120 : readBoardAux P2 6 (⟨N0, N0, N0, N2, N2, N1, N1, N2, N0⟩ : Grid) P1 = some (Z0, some M01) :=
  readBoardAux_step P2 5 (⟨N0, N0, N0, N2, N2, N1, N1, N2, N0⟩ : Grid) P1 [M00, M01, M02, M22] rfl rfl
    (collectScores_cons v100221120 (collectScores_cons v010221120 (collectScores_cons v001221120 (collectScores_cons v000221121 collectScores_nil)))) rfl

theorem v000221112 : readBoardAux P2 5 (⟨N0, N0, N0, N2, N2, N1, N1, N1, N2⟩ : Grid) P2 = some (ZP, some M00) :=
  readBoardAux_step P2 4 (⟨N0, N0, N0, N2, N2, N1, N1, N1, N2⟩ : Grid) P2 [M00, M01, M02] rfl rfl
    (collectScores_cons t200221112 (collectScores_cons v020221112 (collectScores_cons v002221112 collectScores_nil))) rfl

theorem v000221102 : readBoardAux P2 6 (⟨N0, N0, N0, N2, N2, N1, N1, N0, N2⟩ : Grid) P1 = some (Z0, some M00) :=
  readBoardAux_step P2 5 (⟨N0, N0, N0, N2, N2, N1, N1, N0, N2⟩ : Grid) P1 [M00, M01, M02, M21] rfl rfl
    (collectScores_cons v100221102 (collectScores_cons v010221102 (collectScores_cons v001221102 (collectScores_cons v000221112 collectScores_nil)))) rfl

theorem v000221100 : readBoardAux P2 7 (⟨N0, N0, N0, N2, N2, N1, N1, N0, N0⟩ : Grid) P2 = some (Z0, some M01) :=
  readBoardAux_step P2 6 (⟨N0, N0, N0, N2, N2, N1, N1, N0, N0⟩ : Grid) P2 [M00, M01, M02, M21, M22] rfl rfl
    (collectScores_cons v200221100 (collectScores_cons v020221100 (collectScores_cons v002221100 (collectScores_cons v000221120 (collectScores_cons v000221102 collectScores_nil))))) rfl

theorem v000221211 : readBoardAux P2 5 (⟨N0, N0, N0, N2, N2, N1, N2, N1, N1⟩ : Grid) P2 = some (ZP, some M00) :=
  readBoardAux_step P2 4 (⟨N0, N0, N0, N2, N2, N1, N2, N1, N1⟩ : Grid) P2 [M00, M01, M02] rfl rfl
    (collectScores_cons t200221211 (collectScores_cons v020221211 (collectScores_cons t002221211 collectScores_nil))) rfl

theorem v000221210 : readBoardAux P2 6 (⟨N0, N0, N0, N2, N2, N1, N2, N1, N0⟩ : Grid) P1 = some (ZP, some M00) :=
  readBoardAux_step P2 5 (⟨N0, N0, N0, N2, N2, N1, N2, N1, N0⟩ : Grid) P1 [M00, M01, M02, M22] rfl rfl
    (collectScores_cons v100221210 (collectScores_cons v010221210 (collectScores_cons v001221210 (collectScores_cons v000221211 collectScores_nil)))) rfl

theorem v000221012 : readBoardAux P2 6 (⟨N0, N0, N0, N2, N2, N1, N0, N1, N2⟩ : Grid) P1 = some (Z0, some M00) :=
  readBoardAux_step P2 5 (⟨N0, N0, N0, N2, N2, N1, N0, N1, N2⟩ : Grid) P1 [M00, M01, M02, M20] rfl rfl
    (collectScores_cons v100221012 (collectScores_cons v010221012 (collectScores_cons v001221012 (collectScores_cons v000221112 collectScores_nil)))) rfl

theorem v000221010 : readBoardAux P2 7 (⟨N0, N0, N0, N2, N2, N1, N0, N1, N0⟩ : Grid) P2 = some (ZP, some M00) :=
  readBoardAux_step P2 6 (⟨N0, N0, N0, N2, N2, N1, N0, N1, N0⟩ : Grid) P2 [M00, M01, M02, M20, M22] rfl rfl
    (collectScores_cons v200221010 (collectScores_cons v020221010 (collectScores_cons v002221010 (collectScores_cons v000221210 (collectScores_cons v000221012 collectScores_nil))))) rfl

theorem v000221201 : readBoardAux P2 6 (⟨N0, N0, N0, N2, N2, N1, N2, N0, N1⟩ : Grid) P1 = some (ZM, some M02) :=
  readBoardAux_step P2 5 (⟨N0, N0, N0, N2, N2, N1, N2, N0, N1⟩ : Grid) P1 [M00, M01, M02, M21] rfl rfl
    (collectScores_cons v100221201 (collectScores_cons v010221201 (collectScores_cons t001221201 (collectScores_cons v000221211 collectScores_nil)))) rfl

theorem v000221021 : readBoardAux P2 6 (⟨N0, N0, N0, N2, N2, N1, N0, N2, N1⟩ : Grid) P1 = some (ZM, some M02) :=
  readBoardAux_step P2 5 (⟨N0, N0, N0, N2, N2, N1, N0, N2, N1⟩ : Grid) P1 [M00, M01, M02, M20] rfl rfl
    (collectScores_cons v100221021 (collectScores_cons v010221021 (collectScores_cons t001221021 (collectScores_cons v000221121 collectScores_nil)))) rfl

theorem v000221001 : readBoardAux P2 7 (⟨N0, N0, N0, N2, N2, N1, N0, N0, N1⟩ : Grid) P2 = some (Z0, some M02) :=
  readBoardAux_step P2 6 (⟨N0, N0, N0, N2, N2, N1, N0, N0, N1⟩ : Grid) P2 [M00, M01, M02, M20, M21] rfl rfl
    (collectScores_cons v200221001 (collectScores_cons v020221001 (collectScores_cons v002221001 (collectScores_cons v000221201 (collectScores_cons v000221021 collectScores_nil))))) rfl

theorem v000221000 : readBoardAux P2 8 (⟨N0, N0, N0, N2, N2, N1, N0, N0, N0⟩ : Grid) P1 = some (Z0, some M00) :=
  readBoardAux_step P2 7 (⟨N0, N0, N0, N2, N2, N1, N0, N0, N0⟩ : Grid) P1 [M00, M01, M02, M20, M21, M22] rfl rfl
    (collectScores_cons v100221000 (collectScores_cons v010221000 (collectScores_cons v001221000 (collectScores_cons v000221100 (collectScores_cons v000221010 (collectScores_cons v000221001 collectScores_nil)))))) rfl

theorem v000201212 : readBoardAux P2 6 (⟨N0, N0, N0, N2, N0, N1, N2, N1, N2⟩ : Grid) P1 = some (Z0, some M00) :=
  readBoardAux_step P2 5 (⟨N0, N0, N0, N2, N0, N1, N2, N1, N2⟩ : Grid) P1 [M00, M01, M02, M11] rfl rfl
    (collectScores_cons v100201212 (collectScores_cons v010201212 (collectScores_cons v001201212 (collectScores_cons v000211212 collectScores_nil)))) rfl

theorem v000201210 : readBoardAux P2 7 (⟨N0, N0, N0, N2, N0, N1, N2, N1, N0⟩ : Grid) P2 = some (ZP, some M00) :=
  readBoardAux_step P2 6 (⟨N0, N0, N0, N2, N0, N1, N2, N1, N0⟩ : Grid) P2 [M00, M01, M02, M11, M22] rfl rfl
    (collectScores_cons t200201210 (collectScores_cons v020201210 (collectScores_cons v002201210 (collectScores_cons v000221210 (collectScores_cons v000201212 collectScores_nil))))) rfl

theorem v000201221 : readBoardAux P2 6 (⟨N0, N0, N0, N2, N0, N1, N2, N2, N1⟩ : Grid) P1 = some (ZM, some M00) :=
  readBoardAux_step P2 5 (⟨N0, N0, N0, N2, N0, N1, N2, N2, N1⟩ : Grid) P1 [M00, M01, M02, M11] rfl rfl
    (collectScores_cons v100201221 (collectScores_cons v010201221 (collectScores_cons t001201221 (collectScores_cons v000211221 collectScores_nil)))) rfl

theorem v000201201 : readBoardAux P2 7 (⟨N0, N0, N0, N2, N0, N1, N2, N0, N1⟩ : Grid) P2 = some (ZP, some M00) :=
  readBoardAux_step P2 6 (⟨N0, N0, N0, N2, N0, N1, N2, N0, N1⟩ : Grid) P2 [M00, M01, M02, M11, M21] rfl rfl
    (collectScores_cons t200201201 (collectScores_cons v020201201 (collectScores_cons v002201201 (collectScores_cons v000221201 (collectScores_cons v000201221 collectScores_nil))))) rfl

theorem v000201200 : readBoardAux P2 8 (⟨N0, N0, N0, N2, N0, N1, N2, N0, N0⟩ : Grid) P1 = some (Z0, some M00) :=
  readBoardAux_step P2 7 (⟨N0, N0, N0, N2, N0, N1, N2, N0, N0⟩ : Grid) P1 [M00, M01, M02, M11, M21, M22] rfl rfl
    (collectScores_cons v100201200 (collectScores_cons v010201200 (collectScores_cons v001201200 (collectScores_cons v000211200 (collectScores_cons v000201210 (collectScores_cons v000201201 collectScores_nil)))))) rfl

theorem v000201122 : readBoardAux P2 6 (⟨N0, N0, N0, N2, N0, N1, N1, N2, N2⟩ : Grid) P1 = some (Z0, some M00) :=
  readBoardAux_step P2 5 (⟨N0, N0, N0, N2, N0, N1, N1, N2, N2⟩ : Grid) P1 [M00, M01, M02, M11] rfl rfl
    (collectScores_cons v100201122 (collectScores_cons v010201122 (collectScores_cons v001201122 (collectScores_cons v000211122 collectScores_nil)))) rfl

theorem v000201120 : readBoardAux P2 7 (⟨N0, N0, N0, N2, N0, N1, N1, N2, N0⟩ : Grid) P2 = some (Z0, some M01) :=
  readBoardAux_step P2 6 (⟨N0, N0, N0, N2, N0, N1, N1, N2, N0⟩ : Grid) P2 [M00, M01, M02, M11, M22] rfl rfl
    (collectScores_cons v200201120 (collectScores_cons v020201120 (collectScores_cons v002201120 (collectScores_cons v000221120 (collectScores_cons v000201122 collectScores_nil))))) rfl

theorem v000201021 : readBoardAux P2 7 (⟨N0, N0, N0, N2, N0, N1, N0, N2, N1⟩ : Grid) P2 = some (ZP, some M02) :=
  readBoardAux_step P2 6 (⟨N0, N0, N0, N2, N0, N1, N0, N2, N1⟩ : Grid) P2 [M00, M01, M02, M11, M20] rfl rfl
    (collectScores_cons v200201021 (collectScores_cons v020201021 (collectScores_cons v002201021 (collectScores_cons v000221021 (collectScores_cons v000201221 collectScores_nil))))) rfl

theorem v000201020 : readBoardAux P2 8 (⟨N0, N0, N0, N2, N0, N1, N0, N2, N0⟩ : Grid) P1 = some (Z0, some M00) :=
  readBoardAux_step P2 7 (⟨N0, N0, N0, N2, N0, N1, N0, N2, N0⟩ : Grid) P1 [M00, M01, M02, M11, M20, M22] rfl rfl
    (collectScores_cons v100201020 (collectScores_cons v010201020 (collectScores_cons v001201020 (collectScores_cons v000211020 (collectScores_cons v000201120 (collectScores_cons v000201021 collectScores_nil)))))) rfl

theorem v000201102 : readBoardAux P2 7 (⟨N0, N0, N0, N2, N0, N1, N1, N0, N2⟩ : Grid) P2 = some (Z0, some M00) :=
  readBoardAux_step P2 6 (⟨N0, N0, N0, N2, N0, N1, N1, N0, N2⟩ : Grid) P2 [M00, M01, M02, M11, M21] rfl rfl
    (collectScores_cons v200201102 (collectScores_cons v020201102 (collectScores_cons v002201102 (collectScores_cons v000221102 (collectScores_cons v000201122 collectScores_nil))))) rfl

theorem v000201012 : readBoardAux P2 7 (⟨N0, N0, N0, N2, N0, N1, N0, N1, N2⟩ : Grid) P2 = some (ZP, some M00) :=
  readBoardAux_step P2 6 (⟨N0, N0, N0, N2, N0, N1, N0, N1, N2⟩ : Grid) P2 [M00, M01, M02, M11, M20] rfl rfl
    (collectScores_cons v200201012 (collectScores_cons v020201012 (collectScores_cons v002201012 (collectScores_cons v000221012 (collectScores_cons v000201212 collectScores_nil))))) rfl

theorem v000201002 : readBoardAux P2 8 (⟨N0, N0, N0, N2, N0, N1, N0, N0, N2⟩ : Grid) P1 = some (Z0, some M00) :=
  readBoardAux_step P2 7 (⟨N0, N0, N0, N2, N0, N1, N0, N0, N2⟩ : Grid) P1 [M00, M01, M02, M11, M20, M21] rfl rfl
    (collectScores_cons v100201002 (collectScores_cons v010201002 (collectScores_cons v001201002 (collectScores_cons v000211002 (collectScores_cons v000201102 (collectScores_cons v000201012 collectScores_nil)))))) rfl

theorem v000201000 : readBoardAux P2 9 (⟨N0, N0, N0, N2, N0, N1, N0, N0, N0⟩ : Grid) P2 = some (Z0, some M00) :=
  readBoardAux_step P2 8 (⟨N0, N0, N0, N2, N0, N1, N0, N0, N0⟩ : Grid) P2 [M00, M01, M02, M11, M20, M21, M22] rfl rfl
    (collectScores_cons v200201000 (collectScores_cons v020201000 (collectScores_cons v002201000 (collectScores_cons v000221000 (collectScores_cons v000201200 (collectScores_cons v000201020 (collectScores_cons v000201002 collectScores_nil))))))) rfl

theorem t000222110 : readBoardAux P2 6 (⟨N0, N0, N0, N2, N2, N2, N1, N1, N0⟩ : Grid) P1 = some (ZP, none) :=
  rfl

theorem v000220112 : readBoardAux P2 6 (⟨N0, N0, N0, N2, N2, N0, N1, N1, N2⟩ : Grid) P1 = some (ZP, some M00) :=
  readBoardAux_step P2 5 (⟨N0, N0, N0, N2, N2, N0, N1, N1, N2⟩ : Grid) P1 [M00, M01, M02, M12] rfl rfl
    (collectScores_cons v100220112 (collectScores_cons v010220112 (collectScores_cons v001220112 (collectScores_cons v000221112 collectScores_nil)))) rfl

theorem v000220110 : readBoardAux P2 7 (⟨N0, N0, N0, N2, N2, N0, N1, N1, N0⟩ : Grid) P2 = some (ZP, some M12) :=
  readBoardAux_step P2 6 (⟨N0, N0, N0, N2, N2, N0, N1, N1, N0⟩ : Grid) P2 [M00, M01, M02, M12, M22] rfl rfl
    (collectScores_cons v200220110 (collectScores_cons v020220110 (collectScores_cons v002220110 (collectScores_cons t000222110 (collectScores_cons v000220112 collectScores_nil))))) rfl

theorem t000222101 : readBoardAux P2 6 (⟨N0, N0, N0, N2, N2, N2, N1, N0, N1⟩ : Grid) P1 = some (ZP, none) :=
  rfl

theorem v000220121 : readBoardAux P2 6 (⟨N0, N0, N0, N2, N2, N0, N1, N2, N1⟩ : Grid) P1 = some (ZP, some M00) :=
  readBoardAux_step P2 5 (⟨N0, N0, N0, N2, N2, N0, N1, N2, N1⟩ : Grid) P1 [M00, M01, M02, M12] rfl rfl
    (collectScores_cons v100220121 (collectScores_cons v010220121 (collectScores_cons v001220121 (collectScores_cons v000221121 collectScores_nil)))) rfl

theorem v000220101 : readBoardAux P2 7 (⟨N0, N0, N0, N2, N2, N0, N1, N0, N1⟩ : Grid) P2 = some (ZP, some M12) :=
  readBoardAux_step P2 6 (⟨N0, N0, N0, N2, N2, N0, N1, N0, N1⟩ : Grid) P2 [M00, M01, M02, M12, M21] rfl rfl
    (collectScores_cons v200220101 (collectScores_cons v020220101 (collectScores_cons v002220101 (collectScores_cons t000222101 (collectScores_cons v000220121 collectScores_nil))))) rfl

theorem v000220100 : readBoardAux P2 8 (⟨N0, N0, N0, N2, N2, N0, N1, N0, N0⟩ : Grid) P1 = some (Z0, some M12) :=
  readBoardAux_step P2 7 (⟨N0, N0, N0, N2, N2, N0, N1, N0, N0⟩ : Grid) P1 [M00, M01, M02, M12, M21, M22] rfl rfl
    (collectScores_cons v100220100 (collectScores_cons v010220100 (collectScores_cons v001220100 (collectScores_cons v000221100 (collectScores_cons v000220110 (collectScores_cons v000220101 collectScores_nil)))))) rfl

theorem v000202112 : readBoardAux P2 6 (⟨N0, N0, N0, N2, N0, N2, N1, N1, N2⟩ : Grid) P1 = some (ZP, some M00) :=
  readBoardAux_step P2 5 (⟨N0, N0, N0, N2, N0, N2, N1, N1, N2⟩ : Grid) P1 [M00, M01, M02, M11] rfl rfl
    (collectScores_cons v100202112 (collectScores_cons v010202112 (collectScores_cons v001202112 (collectScores_cons v000212112 collectScores_nil)))) rfl

theorem v000202110 : readBoardAux P2 7 (⟨N0, N0, N0, N2, N0, N2, N1, N1, N0⟩ : Grid) P2 = some (ZP, some M11) :=
  readBoardAux_step P2 6 (⟨N0, N0, N0, N2, N0, N2, N1, N1, N0⟩ : Grid) P2 [M00, M01, M02, M11, M22] rfl rfl
    (collectScores_cons v200202110 (collectScores_cons v020202110 (collectScores_cons v002202110 (collectScores_cons t000222110 (collectScores_cons v000202112 collectScores_nil))))) rfl

theorem v000202121 : readBoardAux P2 6 (⟨N0, N0, N0, N2, N0, N2, N1, N2, N1⟩ : Grid) P1 = some (ZM, some M11) :=
  readBoardAux_step P2 5 (⟨N0, N0, N0, N2, N0, N2, N1, N2, N1⟩ : Grid) P1 [M00, M01, M02, M11] rfl rfl
    (collectScores_cons v100202121 (collectScores_cons v010202121 (collectScores_cons v001202121 (collectScores_cons v000212121 collectScores_nil)))) rfl

theorem v000202101 : readBoardAux P2 7 (⟨N0, N0, N0, N2, N0, N2, N1, N0, N1⟩ : Grid) P2 = some (ZP, some M11) :=
  readBoardAux_step P2 6 (⟨N0, N0, N0, N2, N0, N2, N1, N0, N1⟩ : Grid) P2 [M00, M01, M02, M11, M21] rfl rfl
    (collectScores_cons v200202101 (collectScores_cons v020202101 (collectScores_cons v002202101 (collectScores_cons t000222101 (collectScores_cons v000202121 collectScores_nil))))) rfl

theorem v000202100 : readBoardAux P2 8 (⟨N0, N0, N0, N2, N0, N2, N1, N0, N0⟩ : Grid) P1 = some (ZM, some M11) :=
  readBoardAux_step P2 7 (⟨N0, N0, N0, N2, N0, N2, N1, N0, N0⟩ : Grid) P1 [M00, M01, M02, M11, M21, M22] rfl rfl
    (collectScores_cons v100202100 (collectScores_cons v010202100 (collectScores_cons v001202100 (collectScores_cons v000212100 (collectScores_cons v000202110 (collectScores_cons v000202101 collectScores_nil)))))) rfl

theorem v000200121 : readBoardAux P2 7 (⟨N0, N0, N0, N2, N0, N0, N1, N2, N1⟩ : Grid) P2 = some (ZP, some M11) :=
  readBoardAux_step P2 6 (⟨N0, N0, N0, N2, N0, N0, N1, N2, N1⟩ : Grid) P2 [M00, M01, M02, M11, M12] rfl rfl
    (collectScores_cons v200200121 (collectScores_cons v020200121 (collectScores_cons v002200121 (collectScores_cons v000220121 (collectScores_cons v000202121 collectScores_nil))))) rfl

theorem v000200120 : readBoardAux P2 8 (⟨N0, N0, N0, N2, N0, N0, N1, N2, N0⟩ : Grid) P1 = some (Z0, some M01) :=
  readBoardAux_step P2 7 (⟨N0, N0, N0, N2, N0, N0, N1, N2, N0⟩ : Grid) P1 [M00, M01, M02, M11, M12, M22] rfl rfl
    (collectScores_cons v100200120 (collectScores_cons v010200120 (collectScores_cons v001200120 (collectScores_cons v000210120 (collectScores_cons v000201120 (collectScores_cons v000200121 collectScores_nil)))))) rfl

theorem v000200112 : readBoardAux P2 7 (⟨N0, N0, N0, N2, N0, N0, N1, N1, N2⟩ : Grid) P2 = some (ZP, some M01) :=
  readBoardAux_step P2 6 (⟨N0, N0, N0, N2, N0, N0, N1, N1, N2⟩ : Grid) P2 [M00, M01, M02, M11, M12] rfl rfl
    (collectScores_cons v200200112 (collectScores_cons v020200112 (collectScores_cons v002200112 (collectScores_cons v000220112 (collectScores_cons v000202112 collectScores_nil))))) rfl

theorem v000200102 : readBoardAux P2 8 (⟨N0, N0, N0, N2, N0, N0, N1, N0, N2⟩ : Grid) P1 = some (Z0, some M11) :=
  readBoardAux_step P2 7 (⟨N0, N0, N0, N2, N0, N0, N1, N0, N2⟩ : Grid) P1 [M00, M01, M02, M11, M12, M21] rfl rfl
    (collectScores_cons v100200102 (collectScores_cons v010200102 (collectScores_cons v001200102 (collectScores_cons v000210102 (collectScores_cons v000201102 (collectScores_cons v000200112 collectScores_nil)))))) rfl

theorem v000200100 : readBoardAux P2 9 (⟨N0, N0, N0, N2, N0, N0, N1, N0, N0⟩ : Grid) P2 = some (Z0, some M02) :=
  readBoardAux_step P2 8 (⟨N0, N0, N0, N2, N0, N0, N1, N0, N0⟩ : Grid) P2 [M00, M01, M02, M11, M12, M21, M22] rfl rfl
    (collectScores_cons v200200100 (collectScores_cons v020200100 (collectScores_cons v002200100 (collectScores_cons v000220100 (collectScores_cons v000202100 (collectScores_cons v000200120 (collectScores_cons v000200102 collectScores_nil))))))) rfl

theorem t000222011 : readBoardAux P2 6 (⟨N0, N0, N0, N2, N2, N2, N0, N1, N1⟩ : Grid) P1 = some (ZP, none) :=
  rfl

theorem v000220211 : readBoardAux P2 6 (⟨N0, N0, N0, N2, N2, N0, N2, N1, N1⟩ : Grid) P1 = some (ZP, some M00) :=
  readBoardAux_step P2 5 (⟨N0, N0, N0, N2, N2, N0, N2, N1, N1⟩ : Grid) P1 [M00, M01, M02, M12] rfl rfl
    (collectScores_cons v100220211 (collectScores_cons v010220211 (collectScores_cons v001220211 (collectScores_cons v000221211 collectScores_nil)))) rfl

theorem v000220011 : readBoardAux P2 7 (⟨N0, N0, N0, N2, N2, N0, N0, N1, N1⟩ : Grid) P2 = some (ZP, some M12) :=
  readBoardAux_step P2 6 (⟨N0, N0, N0, N2, N2, N0, N0, N1, N1⟩ : Grid) P2 [M00, M01, M02, M12, M20] rfl rfl
    (collectScores_cons v200220011 (collectScores_cons v020220011 (collectScores_cons v002220011 (collectScores_cons t000222011 (collectScores_cons v000220211 collectScores_nil))))) rfl

theorem v000220010 : readBoardAux P2 8 (⟨N0, N0, N0, N2, N2, N0, N0, N1, N0⟩ : Grid) P1 = some (ZP, some M00) :=
  readBoardAux_step P2 7 (⟨N0, N0, N0, N2, N2, N0, N0, N1, N0⟩ : Grid) P1 [M00, M01, M02, M12, M20, M22] rfl rfl
    (collectScores_cons v100220010 (collectScores_cons v010220010 (collectScores_cons v001220010 (collectScores_cons v000221010 (collectScores_cons v000220110 (collectScores_cons v000220011 collectScores_nil)))))) rfl

theorem v000202211 : readBoardAux P2 6 (⟨N0, N0, N0, N2, N0, N2, N2, N1, N1⟩ : Grid) P1 = some (ZP, some M00) :=
  readBoardAux_step P2 5 (⟨N0, N0, N0, N2, N0, N2, N2, N1, N1⟩ : Grid) P1 [M00, M01, M02, M11] rfl rfl
    (collectScores_cons v100202211 (collectScores_cons v010202211 (collectScores_cons v001202211 (collectScores_cons v000212211 collectScores_nil)))) rfl

theorem v000202011 : readBoardAux P2 7 (⟨N0, N0, N0, N2, N0, N2, N0, N1, N1⟩ : Grid) P2 = some (ZP, some M11) :=
  readBoardAux_step P2 6 (⟨N0, N0, N0, N2, N0, N2, N0, N1, N1⟩ : Grid) P2 [M00, M01, M02, M11, M20] rfl rfl
    (collectScores_cons v200202011 (collectScores_cons v020202011 (collectScores_cons v002202011 (collectScores_cons t000222011 (collectScores_cons v000202211 collectScores_nil))))) rfl

theorem v000202010 : readBoardAux P2 8 (⟨N0, N0, N0, N2, N0, N2, N0, N1, N0⟩ : Grid) P1 = some (ZM, some M11) :=
  readBoardAux_step P2 7 (⟨N0, N0, N0, N2, N0, N2, N0, N1, N0⟩ : Grid) P1 [M00, M01, M02, M11, M20, M22] rfl rfl
    (collectScores_cons v100202010 (collectScores_cons v010202010 (collectScores_cons v001202010 (collectScores_cons v000212010 (collectScores_cons v000202110 (collectScores_cons v000202011 collectScores_nil)))))) rfl

theorem v000200211 : readBoardAux P2 7 (⟨N0, N0, N0, N2, N0, N0, N2, N1, N1⟩ : Grid) P2 = some (ZP, some M00) :=
  readBoardAux_step P2 6 (⟨N0, N0, N0, N2, N0, N0, N2, N1, N1⟩ : Grid) P2 [M00, M01, M02, M11, M12] rfl rfl
    (collectScores_cons t200200211 (collectScores_cons v020200211 (collectScores_cons v002200211 (collectScores_cons v000220211 (collectScores_cons v000202211 collectScores_nil))))) rfl

theorem v000200210 : readBoardAux P2 8 (⟨N0, N0, N0, N2, N0, N0, N2, N1, N0⟩ : Grid) P1 = some (ZP, some M00) :=
  readBoardAux_step P2 7 (⟨N0, N0, N0, N2, N0, N0, N2, N1, N0⟩ : Grid) P1 [M00, M01, M02, M11, M12, M22] rfl rfl
    (collectScores_cons v100200210 (collectScores_cons v010200210 (collectScores_cons v001200210 (collectScores_cons v000210210 (collectScores_cons v000201210 (collectScores_cons v000200211 collectScores_nil)))))) rfl

theorem v000200012 : readBoardAux P2 8 (⟨N0, N0, N0, N2, N0, N0, N0, N1, N2⟩ : Grid) P1 = some (Z0, some M11) :=
  readBoardAux_step P2 7 (⟨N0, N0, N0, N2, N0, N0, N0, N1, N2⟩ : Grid) P1 [M00, M01, M02, M11, M12, M20] rfl rfl
    (collectScores_cons v100200012 (collectScores_cons v010200012 (collectScores_cons v001200012 (collectScores_cons v000210012 (collectScores_cons v000201012 (collectScores_cons v000200112 collectScores_nil)))))) rfl

theorem v000200010 : readBoardAux P2 9 (⟨N0, N0, N0, N2, N0, N0, N0, N1, N0⟩ : Grid) P2 = some (ZP, some M11) :=
  readBoardAux_step P2 8 (⟨N0, N0, N0, N2, N0, N0, N0, N1, N0⟩ : Grid) P2 [M00, M01, M02, M11, M12, M20, M22] rfl rfl
    (collectScores_cons v200200010 (collectScores_cons v020200010 (collectScores_cons v002200010 (collectScores_cons v000220010 (collectScores_cons v000202010 (collectScores_cons v000200210 (collectScores_cons v000200012 collectScores_nil))))))) rfl

theorem v000220001 : readBoardAux P2 8 (⟨N0, N0, N0, N2, N2, N0, N0, N0, N1⟩ : Grid) P1 = some (Z0, some M12) :=
  readBoardAux_step P2 7 (⟨N0, N0, N0, N2, N2, N0, N0, N0, N1⟩ : Grid) P1 [M00, M01, M02, M12, M20, M21] rfl rfl
    (collectScores_cons v100220001 (collectScores_cons v010220001 (collectScores_cons v001220001 (collectScores_cons v000221001 (collectScores_cons v000220101 (collectScores_cons v000220011 collectScores_nil)))))) rfl

theorem v000202001 : readBoardAux P2 8 (⟨N0, N0, N0, N2, N0, N2, N0, N0, N1⟩ : Grid) P1 = some (ZM, some M11) :=
  readBoardAux_step P2 7 (⟨N0, N0, N0, N2, N0, N2, N0, N0, N1⟩ : Grid) P1 [M00, M01, M02, M11, M20, M21] rfl rfl
    (collectScores_cons v100202001 (collectScores_cons v010202001 (collectScores_cons v001202001 (collectScores_cons v000212001 (collectScores_cons v000202101 (collectScores_cons v000202011 collectScores_nil)))))) rfl

theorem v000200201 : readBoardAux P2 8 (⟨N0, N0, N0, N2, N0, N0, N2, N0, N1⟩ : Grid) P1 = some (ZP, some M00) :=
  readBoardAux_step P2 7 (⟨N0, N0, N0, N2, N0, N0, N2, N0, N1⟩ : Grid) P1 [M00, M01, M02, M11, M12, M21] rfl rfl
    (collectScores_cons v100200201 (collectScores_cons v010200201 (collectScores_cons v001200201 (collectScores_cons v000210201 (collectScores_cons v000201201 (collectScores_cons v000200211 collectScores_nil)))))) rfl

theorem v000200021 : readBoardAux P2 8 (⟨N0, N0, N0, N2, N0, N0, N0, N2, N1⟩ : Grid) P1 = some (ZM, some M02) :=
  readBoardAux_step P2 7 (⟨N0, N0, N0, N2, N0, N0, N0, N2, N1⟩ : Grid) P1 [M00, M01, M02, M11, M12, M20] rfl rfl
    (collectScores_cons v100200021 (collectScores_cons v010200021 (collectScores_cons v001200021 (collectScores_cons v000210021 (collectScores_cons v000201021 (collectScores_cons v000200121 collectScores_nil)))))) rfl

theorem v000200001 : readBoardAux P2 9 (⟨N0, N0, N0, N2, N0, N0, N0, N0, N1⟩ : Grid) P2 = some (ZP, some M20) :=
  readBoardAux_step P2 8 (⟨N0, N0, N0, N2, N0, N0, N0, N0, N1⟩ : Grid) P2 [M00, M01, M02, M11, M12, M20, M21] rfl rfl
    (collectScores_cons v200200001 (collectScores_cons v020200001 (collectScores_cons v002200001 (collectScores_cons v000220001 (collectScores_cons v000202001 (collectScores_cons v000200201 (collectScores_cons v000200021 collectScores_nil))))))) rfl

theorem v000200000 : readBoardAux P2 10 (⟨N0, N0, N0, N2, N0, N0, N0, N0, N0⟩ : Grid) P1 = some (Z0, some M00) :=
  readBoardAux_step P2 9 (⟨N0, N0, N0, N2, N0, N0, N0, N0, N0⟩ : Grid) P1 [M00, M01, M02, M11, M12, M20, M21, M22] rfl rfl
    (collectScores_cons v100200000 (collectScores_cons v010200000 (collectScores_cons v001200000 (collectScores_cons v000210000 (collectScores_cons v000201000 (collectScores_cons v000200100 (collectScores_cons v000200010 (collectScores_cons v000200001 collectScores_nil)))))))) rfl

theorem t111022200 : readBoardAux P2 5 (⟨N1, N1, N1, N0, N2, N2, N2, N0, N0⟩ : Grid) P2 = some (ZM, none) :=
  rfl

theorem t111122220 : readBoardAux P2 3 (⟨N1, N1, N1, N1, N2, N2, N2, N2, N0⟩ : Grid) P2 = some (ZM, none) :=
  rfl

theorem v110122221 : readBoardAux P2 3 (⟨N1, N1, N0, N1, N2, N2, N2, N2, N1⟩ : Grid) P2 = some (ZP, some M02) :=
  readBoardAux_step P2 2 (⟨N1, N1, N0, N1, N2, N2, N2, N2, N1⟩ : Grid) P2 [M02] rfl rfl
    (collectScores_cons t112122221 collectScores_nil) rfl

theorem v110122220 : readBoardAux P2 4 (⟨N1, N1, N0, N1, N2, N2, N2, N2, N0⟩ : Grid) P1 = some (ZM, some M02) :=
  readBoardAux_step P2 3 (⟨N1, N1, N0, N1, N2, N2, N2, N2, N0⟩ : Grid) P1 [M02, M22] rfl rfl
    (collectScores_cons t111122220 (collectScores_cons v110122221 collectScores_nil)) rfl

theorem t111122202 : readBoardAux P2 3 (⟨N1, N1, N1, N1, N2, N2, N2, N0, N2⟩ : Grid) P2 = some (ZM, none) :=
  rfl

theorem t112122212 : readBoardAux P2 2 (⟨N1, N1, N2, N1, N2, N2, N2, N1, N2⟩ : Grid) P1 = some (ZP, none) :=
  rfl

theorem v110122212 : readBoardAux P2 3 (⟨N1, N1, N0, N1, N2, N2, N2, N1, N2⟩ : Grid) P2 = some (ZP, some M02) :=
  readBoardAux_step P2 2 (⟨N1, N1, N0, N1, N2, N2, N2, N1, N2⟩ : Grid) P2 [M02] rfl rfl
    (collectScores_cons t112122212 collectScores_nil) rfl

theorem v110122202 : readBoardAux P2 4 (⟨N1, N1, N0, N1, N2, N2, N2, N0, N2⟩ : Grid) P1 = some (ZM, some M02) :=
  readBoardAux_step P2 3 (⟨N1, N1, N0, N1, N2, N2, N2, N0, N2⟩ : Grid) P1 [M02, M21] rfl rfl
    (collectScores_cons t111122202 (collectScores_cons v110122212 collectScores_nil)) rfl

theorem v110122200 : readBoardAux P2 5 (⟨N1, N1, N0, N1, N2, N2, N2, N0, N0⟩ : Grid) P2 = some (ZP, some M02) :=
  readBoardAux_step P2 4 (⟨N1, N1, N0, N1, N2, N2, N2, N0, N0⟩ : Grid) P2 [M02, M21, M22] rfl rfl
    (collectScores_cons t112122200 (collectScores_cons v110122220 (collectScores_cons v110122202 collectScores_nil))) rfl

theorem t111022212 : readBoardAux P2 3 (⟨N1, N1, N1, N0, N2, N2, N2, N1, N2⟩ : Grid) P2 = some (ZM, none) :=
  rfl

theorem v110022212 : readBoardAux P2 4 (⟨N1, N1, N0, N0, N2, N2, N2, N1, N2⟩ : Grid) P1 = some (ZM, some M02) :=
  readBoardAux_step P2 3 (⟨N1, N1, N0, N0, N2, N2, N2, N1, N2⟩ : Grid) P1 [M02, M10] rfl rfl
    (collectScores_cons t111022212 (collectScores_cons v110122212 collectScores_nil)) rfl

theorem v110022210 : readBoardAux P2 5 (⟨N1, N1, N0, N0, N2, N2, N2, N1, N0⟩ : Grid) P2 = some (ZP, some M02) :=
  readBoardAux_step P2 4 (⟨N1, N1, N0, N0, N2, N2, N2, N1, N0⟩ : Grid) P2 [M02, M10, M22] rfl rfl
    (collectScores_cons t112022210 (collectScores_cons t110222210 (collectScores_cons v110022212 collectScores_nil))) rfl

theorem t111022221 : readBoardAux P2 3 (⟨N1, N1, N1, N0, N2, N2, N2, N2, N1⟩ : Grid) P2 = some (ZM, none) :=
  rfl

theorem v110022221 : readBoardAux P2 4 (⟨N1, N1, N0, N0, N2, N2, N2, N2, N1⟩ : Grid) P1 = some (ZM, some M02) :=
  readBoardAux_step P2 3 (⟨N1, N1, N0, N0, N2, N2, N2, N2, N1⟩ : Grid) P1 [M02, M10] rfl rfl
    (collectScores_cons t111022221 (collectScores_cons v110122221 collectScores_nil)) rfl

theorem v110022201 : readBoardAux P2 5 (⟨N1, N1, N0, N0, N2, N2, N2, N0, N1⟩ : Grid) P2 = some (ZP, some M02) :=
  readBoardAux_step P2 4 (⟨N1, N1, N0, N0, N2, N2, N2, N0, N1⟩ : Grid) P2 [M02, M10, M21] rfl rfl
    (collectScores_cons t112022201 (collectScores_cons t110222201 (collectScores_cons v110022221 collectScores_nil))) rfl

theorem v110022200 : readBoardAux P2 6 (⟨N1, N1, N0, N0, N2, N2, N2, N0, N0⟩ : Grid) P1 = some (ZM, some M02) :=
  readBoardAux_step P2 5 (⟨N1, N1, N0, N0, N2, N2, N2, N0, N0⟩ : Grid) P1 [M02, M10, M21, M22] rfl rfl
    (collectScores_cons t111022200 (collectScores_cons v110122200 (collectScores_cons v110022210 (collectScores_cons v110022201 collectScores_nil)))) rfl

theorem t111022020 : readBoardAux P2 5 (⟨N1, N1, N1, N0, N2, N2, N0, N2, N0⟩ : Grid) P2 = some (ZM, none) :=
  rfl

theorem t111122022 : readBoardAux P2 3 (⟨N1, N1, N1, N1, N2, N2, N0, N2, N2⟩ : Grid) P2 = some (ZM, none) :=
  rfl

theorem t110122122 : readBoardAux P2 3 (⟨N1, N1, N0, N1, N2, N2, N1, N2, N2⟩ : Grid) P2 = some (ZM, none) :=
  rfl

theorem v110122022 : readBoardAux P2 4 (⟨N1, N1, N0, N1, N2, N2, N0, N2, N2⟩ : Grid) P1 = some (ZM, some M02) :=
  readBoardAux_step P2 3 (⟨N1, N1, N0, N1, N2, N2, N0, N2, N2⟩ : Grid) P1 [M02, M20] rfl rfl
    (collectScores_cons t111122022 (collectScores_cons t110122122 collectScores_nil)) rfl

theorem v110122020 : readBoardAux P2 5 (⟨N1, N1, N0, N1, N2, N2, N0, N2, N0⟩ : Grid) P2 = some (ZM, some M02) :=
  readBoardAux_step P2 4 (⟨N1, N1, N0, N1, N2, N2, N0, N2, N0⟩ : Grid) P2 [M02, M20, M22] rfl rfl
    (collectScores_cons v112122020 (collectScores_cons v110122220 (collectScores_cons v110122022 collectScores_nil))) rfl

theorem t111022122 : readBoardAux P2 3 (⟨N1, N1, N1, N0, N2, N2, N1, N2, N2⟩ : Grid) P2 = some (ZM, none) :=
  rfl

theorem v110022122 : readBoardAux P2 4 (⟨N1, N1, N0, N0, N2, N2, N1, N2, N2⟩ : Grid) P1 = some (ZM, some M02) :=
  readBoardAux_step P2 3 (⟨N1, N1, N0, N0, N2, N2, N1, N2, N2⟩ : Grid) P1 [M02, M10] rfl rfl
    (collectScores_cons t111022122 (collectScores_cons t110122122 collectScores_nil)) rfl

theorem v110022120 : readBoardAux P2 5 (⟨N1, N1, N0, N0, N2, N2, N1, N2, N0⟩ : Grid) P2 = some (ZP, some M10) :=
  readBoardAux_step P2 4 (⟨N1, N1, N0, N0, N2, N2, N1, N2, N0⟩ : Grid) P2 [M02, M10, M22] rfl rfl
    (collectScores_cons v112022120 (collectScores_cons t110222120 (collectScores_cons v110022122 collectScores_nil))) rfl

theorem v110022021 : readBoardAux P2 5 (⟨N1, N1, N0, N0, N2, N2, N0, N2, N1⟩ : Grid) P2 = some (ZP, some M02) :=
  readBoardAux_step P2 4 (⟨N1, N1, N0, N0, N2, N2, N0, N2, N1⟩ : Grid) P2 [M02, M10, M20] rfl rfl
    (collectScores_cons v112022021 (collectScores_cons t110222021 (collectScores_cons v110022221 collectScores_nil))) rfl

theorem v110022020 : readBoardAux P2 6 (⟨N1, N1, N0, N0, N2, N2, N0, N2, N0⟩ : Grid) P1 = some (ZM, some M02) :=
  readBoardAux_step P2 5 (⟨N1, N1, N0, N0, N2, N2, N0, N2, N0⟩ : Grid) P1 [M02, M10, M20, M22] rfl rfl
    (collectScores_cons t111022020 (collectScores_cons v110122020 (collectScores_cons v110022120 (collectScores_cons v110022021 collectScores_nil)))) rfl

theorem t111022002 : readBoardAux P2 5 (⟨N1, N1, N1, N0, N2, N2, N0, N0, N2⟩ : Grid) P2 = some (ZM, none) :=
  rfl

theorem v110122002 : readBoardAux P2 5 (⟨N1, N1, N0, N1, N2, N2, N0, N0, N2⟩ : Grid) P2 = some (ZP, some M02) :=
  readBoardAux_step P2 4 (⟨N1, N1, N0, N1, N2, N2, N0, N0, N2⟩ : Grid) P2 [M02, M20, M21] rfl rfl
    (collectScores_cons t112122002 (collectScores_cons v110122202 (collectScores_cons v110122022 collectScores_nil))) rfl

theorem v110022102 : readBoardAux P2 5 (⟨N1, N1, N0, N0, N2, N2, N1, N0, N2⟩ : Grid) P2 = some (ZP, some M02) :=
  readBoardAux_step P2 4 (⟨N1, N1, N0, N0, N2, N2, N1, N0, N2⟩ : Grid) P2 [M02, M10, M21] rfl rfl
    (collectScores_cons t112022102 (collectScores_cons t110222102 (collectScores_cons v110022122 collectScores_nil))) rfl

theorem v110022012 : readBoardAux P2 5 (⟨N1, N1, N0, N0, N2, N2, N0, N1, N2⟩ : Grid) P2 = some (ZP, some M02) :=
  readBoardAux_step P2 4 (⟨N1, N1, N0, N0, N2, N2, N0, N1, N2⟩ : Grid) P2 [M02, M10, M20] rfl rfl
    (collectScores_cons t112022012 (collectScores_cons t110222012 (collectScores_cons v110022212 collectScores_nil))) rfl

theorem v110022002 : readBoardAux P2 6 (⟨N1, N1, N0, N0, N2, N2, N0, N0, N2⟩ : Grid) P1 = some (ZM, some M02) :=
  readBoardAux_step P2 5 (⟨N1, N1, N0, N0, N2, N2, N0, N0, N2⟩ : Grid) P1 [M02, M10, M20, M21] rfl rfl
    (collectScores_cons t111022002 (collectScores_cons v110122002 (collectScores_cons v110022102 (collectScores_cons v110022012 collectScores_nil)))) rfl

theorem v110022000 : readBoardAux P2 7 (⟨N1, N1, N0, N0, N2, N2, N0, N0, N0⟩ : Grid) P2 = some (ZP, some M02) :=
  readBoardAux_step P2 6 (⟨N1, N1, N0, N0, N2, N2, N0, N0, N0⟩ : Grid) P2 [M02, M10, M20, M21, M22] rfl rfl
    (collectScores_cons v112022000 (collectScores_cons t110222000 (collectScores_cons v110022200 (collectScores_cons v110022020 (collectScores_cons v110022002 collectScores_nil))))) rfl

theorem v101122221 : readBoardAux P2 3 (⟨N1, N0, N1, N1, N2, N2, N2, N2, N1⟩ : Grid) P2 = some (ZP, some M01) :=
  readBoardAux_step P2 2 (⟨N1, N0, N1, N1, N2, N2, N2, N2, N1⟩ : Grid) P2 [M01] rfl rfl
    (collectScores_cons t121122221 collectScores_nil) rfl

theorem v101122220 : readBoardAux P2 4 (⟨N1, N0, N1, N1, N2, N2, N2, N2, N0⟩ : Grid) P1 = some (ZM, some M01) :=
  readBoardAux_step P2 3 (⟨N1, N0, N1, N1, N2, N2, N2, N2, N0⟩ : Grid) P1 [M01, M22] rfl rfl
    (collectScores_cons t111122220 (collectScores_cons v101122221 collectScores_nil)) rfl

theorem v101122212 : readBoardAux P2 3 (⟨N1, N0, N1, N1, N2, N2, N2, N1, N2⟩ : Grid) P2 = some (Z0, some M01) :=
  readBoardAux_step P2 2 (⟨N1, N0, N1, N1, N2, N2, N2, N1, N2⟩ : Grid) P2 [M01] rfl rfl
    (collectScores_cons t121122212 collectScores_nil) rfl

theorem v101122202 : readBoardAux P2 4 (⟨N1, N0, N1, N1, N2, N2, N2, N0, N2⟩ : Grid) P1 = some (ZM, some M01) :=
  readBoardAux_step P2 3 (⟨N1, N0, N1, N1, N2, N2, N2, N0, N2⟩ : Grid) P1 [M01, M21] rfl rfl
    (collectScores_cons t111122202 (collectScores_cons v101122212 collectScores_nil)) rfl

theorem v101122200 : readBoardAux P2 5 (⟨N1, N0, N1, N1, N2, N2, N2, N0, N0⟩ : Grid) P2 = some (Z0, some M01) :=
  readBoardAux_step P2 4 (⟨N1, N0, N1, N1, N2, N2, N2, N0, N0⟩ : Grid) P2 [M01, M21, M22] rfl rfl
    (collectScores_cons v121122200 (collectScores_cons v101122220 (collectScores_cons v101122202 collectScores_nil))) rfl

theorem v101022212 : readBoardAux P2 4 (⟨N1, N0, N1, N0, N2, N2, N2, N1, N2⟩ : Grid) P1 = some (ZM, some M01) :=
  readBoardAux_step P2 3 (⟨N1, N0, N1, N0, N2, N2, N2, N1, N2⟩ : Grid) P1 [M01, M10] rfl rfl
    (collectScores_cons t111022212 (collectScores_cons v101122212 collectScores_nil)) rfl

theorem v101022210 : readBoardAux P2 5 (⟨N1, N0, N1, N0, N2, N2, N2, N1, N0⟩ : Grid) P2 = some (ZP, some M10) :=
  readBoardAux_step P2 4 (⟨N1, N0, N1, N0, N2, N2, N2, N1, N0⟩ : Grid) P2 [M01, M10, M22] rfl rfl
    (collectScores_cons v121022210 (collectScores_cons t101222210 (collectScores_cons v101022212 collectScores_nil))) rfl

theorem v101022221 : readBoardAux P2 4 (⟨N1, N0, N1, N0, N2, N2, N2, N2, N1⟩ : Grid) P1 = some (ZM, some M01) :=
  readBoardAux_step P2 3 (⟨N1, N0, N1, N0, N2, N2, N2, N2, N1⟩ : Grid) P1 [M01, M10] rfl rfl
    (collectScores_cons t111022221 (collectScores_cons v101122221 collectScores_nil)) rfl

theorem v101022201 : readBoardAux P2 5 (⟨N1, N0, N1, N0, N2, N2, N2, N0, N1⟩ : Grid) P2 = some (ZP, some M01) :=
  readBoardAux_step P2 4 (⟨N1, N0, N1, N0, N2, N2, N2, N0, N1⟩ : Grid) P2 [M01, M10, M21] rfl rfl
    (collectScores_cons v121022201 (collectScores_cons t101222201 (collectScores_cons v101022221 collectScores_nil))) rfl

theorem v101022200 : readBoardAux P2 6 (⟨N1, N0, N1, N0, N2, N2, N2, N0, N0⟩ : Grid) P1 = some (ZM, some M01) :=
  readBoardAux_step P2 5 (⟨N1, N0, N1, N0, N2, N2, N2, N0, N0⟩ : Grid) P1 [M01, M10, M21, M22] rfl rfl
    (collectScores_cons t111022200 (collectScores_cons v101122200 (collectScores_cons v101022210 (collectScores_cons v101022201 collectScores_nil)))) rfl

theorem t101122122 : readBoardAux P2 3 (⟨N1, N0, N1, N1, N2, N2, N1, N2, N2⟩ : Grid) P2 = some (ZM, none) :=
  rfl

theorem v101122022 : readBoardAux P2 4 (⟨N1, N0, N1, N1, N2, N2, N0, N2, N2⟩ : Grid) P1 = some (ZM, some M01) :=
  readBoardAux_step P2 3 (⟨N1, N0, N1, N1, N2, N2, N0, N2, N2⟩ : Grid) P1 [M01, M20] rfl rfl
    (collectScores_cons t111122022 (collectScores_cons t101122122 collectScores_nil)) rfl

theorem v101122020 : readBoardAux P2 5 (⟨N1, N0, N1, N1, N2, N2, N0, N2, N0⟩ : Grid) P2 = some (ZP, some M01) :=
  readBoardAux_step P2 4 (⟨N1, N0, N1, N1, N2, N2, N0, N2, N0⟩ : Grid) P2 [M01, M20, M22] rfl rfl
    (collectScores_cons t121122020 (collectScores_cons v101122220 (collectScores_cons v101122022 collectScores_nil))) rfl

theorem v101022122 : readBoardAux P2 4 (⟨N1, N0, N1, N0, N2, N2, N1, N2, N2⟩ : Grid) P1 = some (ZM, some M01) :=
  readBoardAux_step P2 3 (⟨N1, N0, N1, N0, N2, N2, N1, N2, N2⟩ : Grid) P1 [M01, M10] rfl rfl
    (collectScores_cons t111022122 (collectScores_cons t101122122 collectScores_nil)) rfl

theorem v101022120 : readBoardAux P2 5 (⟨N1, N0, N1, N0, N2, N2, N1, N2, N0⟩ : Grid) P2 = some (ZP, some M01) :=
  readBoardAux_step P2 4 (⟨N1, N0, N1, N0, N2, N2, N1, N2, N0⟩ : Grid) P2 [M01, M10, M22] rfl rfl
    (collectScores_cons t121022120 (collectScores_cons t101222120 (collectScores_cons v101022122 collectScores_nil))) rfl

theorem v101022021 : readBoardAux P2 5 (⟨N1, N0, N1, N0, N2, N2, N0, N2, N1⟩ : Grid) P2 = some (ZP, some M01) :=
  readBoardAux_step P2 4 (⟨N1, N0, N1, N0, N2, N2, N0, N2, N1⟩ : Grid) P2 [M01, M10, M20] rfl rfl
    (collectScores_cons t121022021 (collectScores_cons t101222021 (collectScores_cons v101022221 collectScores_nil))) rfl

theorem v101022020 : readBoardAux P2 6 (⟨N1, N0, N1, N0, N2, N2, N0, N2, N0⟩ : Grid) P1 = some (ZM, some M01) :=
  readBoardAux_step P2 5 (⟨N1, N0, N1, N0, N2, N2, N0, N2, N0⟩ : Grid) P1 [M01, M10, M20, M22] rfl rfl
    (collectScores_cons t111022020 (collectScores_cons v101122020 (collectScores_cons v101022120 (collectScores_cons v101022021 collectScores_nil)))) rfl

theorem v101122002 : readBoardAux P2 5 (⟨N1, N0, N1, N1, N2, N2, N0, N0, N2⟩ : Grid) P2 = some (ZM, some M01) :=
  readBoardAux_step P2 4 (⟨N1, N0, N1, N1, N2, N2, N0, N0, N2⟩ : Grid) P2 [M01, M20, M21] rfl rfl
    (collectScores_cons v121122002 (collectScores_cons v101122202 (collectScores_cons v101122022 collectScores_nil))) rfl

theorem v101022102 : readBoardAux P2 5 (⟨N1, N0, N1, N0, N2, N2, N1, N0, N2⟩ : Grid) P2 = some (ZP, some M10) :=
  readBoardAux_step P2 4 (⟨N1, N0, N1, N0, N2, N2, N1, N0, N2⟩ : Grid) P2 [M01, M10, M21] rfl rfl
    (collectScores_cons v121022102 (collectScores_cons t101222102 (collectScores_cons v101022122 collectScores_nil))) rfl

theorem v101022012 : readBoardAux P2 5 (⟨N1, N0, N1, N0, N2, N2, N0, N1, N2⟩ : Grid) P2 = some (ZP, some M10) :=
  readBoardAux_step P2 4 (⟨N1, N0, N1, N0, N2, N2, N0, N1, N2⟩ : Grid) P2 [M01, M10, M20] rfl rfl
    (collectScores_cons v121022012 (collectScores_cons t101222012 (collectScores_cons v101022212 collectScores_nil))) rfl

theorem v101022002 : readBoardAux P2 6 (⟨N1, N0, N1, N0, N2, N2, N0, N0, N2⟩ : Grid) P1 = some (ZM, some M01) :=
  readBoardAux_step P2 5 (⟨N1, N0, N1, N0, N2, N2, N0, N0, N2⟩ : Grid) P1 [M01, M10, M20, M21] rfl rfl
    (collectScores_cons t111022002 (collectScores_cons v101122002 (collectScores_cons v101022102 (collectScores_cons v101022012 collectScores_nil)))) rfl

theorem v101022000 : readBoardAux P2 7 (⟨N1, N0, N1, N0, N2, N2, N0, N0, N0⟩ : Grid) P2 = some (ZP, some M01) :=
  readBoardAux_step P2 6 (⟨N1, N0, N1, N0, N2, N2, N0, N0, N0⟩ : Grid) P2 [M01, M10, M20, M21, M22] rfl rfl
    (collectScores_cons v121022000 (collectScores_cons t101222000 (collectScores_cons v101022200 (collectScores_cons v101022020 (collectScores_cons v101022002 collectScores_nil))))) rfl

theorem v100122212 : readBoardAux P2 4 (⟨N1, N0, N0, N1, N2, N2, N2, N1, N2⟩ : Grid) P1 = some (Z0, some M02) :=
  readBoardAux_step P2 3 (⟨N1, N0, N0, N1, N2, N2, N2, N1, N2⟩ : Grid) P1 [M01, M02] rfl rfl
    (collectScores_cons v110122212 (collectScores_cons v101122212 collectScores_nil)) rfl

theorem v100122210 : readBoardAux P2 5 (⟨N1, N0, N0, N1, N2, N2, N2, N1, N0⟩ : Grid) P2 = some (ZP, some M02) :=
  readBoardAux_step P2 4 (⟨N1, N0, N0, N1, N2, N2, N2, N1, N0⟩ : Grid) P2 [M01, M02, M22] rfl rfl
    (collectScores_cons v120122210 (collectScores_cons t102122210 (collectScores_cons v100122212 collectScores_nil))) rfl

theorem v100122221 : readBoardAux P2 4 (⟨N1, N0, N0, N1, N2, N2, N2, N2, N1⟩ : Grid) P1 = some (ZP, some M01) :=
  readBoardAux_step P2 3 (⟨N1, N0, N0, N1, N2, N2, N2, N2, N1⟩ : Grid) P1 [M01, M02] rfl rfl
    (collectScores_cons v110122221 (collectScores_cons v101122221 collectScores_nil)) rfl

theorem v100122201 : readBoardAux P2 5 (⟨N1, N0, N0, N1, N2, N2, N2, N0, N1⟩ : Grid) P2 = some (ZP, some M01) :=
  readBoardAux_step P2 4 (⟨N1, N0, N0, N1, N2, N2, N2, N0, N1⟩ : Grid) P2 [M01, M02, M21] rfl rfl
    (collectScores_cons v120122201 (collectScores_cons t102122201 (collectScores_cons v100122221 collectScores_nil))) rfl

theorem v100122200 : readBoardAux P2 6 (⟨N1, N0, N0, N1, N2, N2, N2, N0, N0⟩ : Grid) P1 = some (Z0, some M02) :=
  readBoardAux_step P2 5 (⟨N1, N0, N0, N1, N2, N2, N2, N0, N0⟩ : Grid) P1 [M01, M02, M21, M22] rfl rfl
    (collectScores_cons v110122200 (collectScores_cons v101122200 (collectScores_cons v100122210 (collectScores_cons v100122201 collectScores_nil)))) rfl

theorem t100122120 : readBoardAux P2 5 (⟨N1, N0, N0, N1, N2, N2, N1, N2, N0⟩ : Grid) P2 = some (ZM, none) :=
  rfl

theorem v100122021 : readBoardAux P2 5 (⟨N1, N0, N0, N1, N2, N2, N0, N2, N1⟩ : Grid) P2 = some (ZP, some M01) :=
  readBoardAux_step P2 4 (⟨N1, N0, N0, N1, N2, N2, N0, N2, N1⟩ : Grid) P2 [M01, M02, M20] rfl rfl
    (collectScores_cons t120122021 (collectScores_cons v102122021 (collectScores_cons v100122221 collectScores_nil))) rfl

theorem v100122020 : readBoardAux P2 6 (⟨N1, N0, N0, N1, N2, N2, N0, N2, N0⟩ : Grid) P1 = some (ZM, some M01) :=
  readBoardAux_step P2 5 (⟨N1, N0, N0, N1, N2, N2, N0, N2, N0⟩ : Grid) P1 [M01, M02, M20, M22] rfl rfl
    (collectScores_cons v110122020 (collectScores_cons v101122020 (collectScores_cons t100122120 (collectScores_cons v100122021 collectScores_nil)))) rfl

theorem t100122102 : readBoardAux P2 5 (⟨N1, N0, N0, N1, N2, N2, N1, N0, N2⟩ : Grid) P2 = some (ZM, none) :=
  rfl

theorem v100122012 : readBoardAux P2 5 (⟨N1, N0, N0, N1, N2, N2, N0, N1, N2⟩ : Grid) P2 = some (ZP, some M02) :=
  readBoardAux_step P2 4 (⟨N1, N0, N0, N1, N2, N2, N0, N1, N2⟩ : Grid) P2 [M01, M02, M20] rfl rfl
    (collectScores_cons v120122012 (collectScores_cons t102122012 (collectScores_cons v100122212 collectScores_nil))) rfl

theorem v100122002 : readBoardAux P2 6 (⟨N1, N0, N0, N1, N2, N2, N0, N0, N2⟩ : Grid) P1 = some (ZM, some M02) :=
  readBoardAux_step P2 5 (⟨N1, N0, N0, N1, N2, N2, N0, N0, N2⟩ : Grid) P1 [M01, M02, M20, M21] rfl rfl
    (collectScores_cons v110122002 (collectScores_cons v101122002 (collectScores_cons t100122102 (collectScores_cons v100122012 collectScores_nil)))) rfl

theorem v100122000 : readBoardAux P2 7 (⟨N1, N0, N0, N1, N2, N2, N0, N0, N0⟩ : Grid) P2 = some (Z0, some M20) :=
  readBoardAux_step P2 6 (⟨N1, N0, N0, N1, N2, N2, N0, N0, N0⟩ : Grid) P2 [M01, M02, M20, M21, M22] rfl rfl
    (collectScores_cons v120122000 (collectScores_cons v102122000 (collectScores_cons v100122200 (collectScores_cons v100122020 (collectScores_cons v100122002 collectScores_nil))))) rfl

theorem v100022121 : readBoardAux P2 5 (⟨N1, N0, N0, N0, N2, N2, N1, N2, N1⟩ : Grid) P2 = some (ZP, some M01) :=
  readBoardAux_step P2 4 (⟨N1, N0, N0, N0, N2, N2, N1, N2, N1⟩ : Grid) P2 [M01, M02, M10] rfl rfl
    (collectScores_cons t120022121 (collectScores_cons v102022121 (collectScores_cons t100222121 collectScores_nil))) rfl

theorem v100022120 : readBoardAux P2 6 (⟨N1, N0, N0, N0, N2, N2, N1, N2, N0⟩ : Grid) P1 = some (ZM, some M10) :=
  readBoardAux_step P2 5 (⟨N1, N0, N0, N0, N2, N2, N1, N2, N0⟩ : Grid) P1 [M01, M02, M10, M22] rfl rfl
    (collectScores_cons v110022120 (collectScores_cons v101022120 (collectScores_cons t100122120 (collectScores_cons v100022121 collectScores_nil)))) rfl

theorem v100022112 : readBoardAux P2 5 (⟨N1, N0, N0, N0, N2, N2, N1, N1, N2⟩ : Grid) P2 = some (ZP, some M02) :=
  readBoardAux_step P2 4 (⟨N1, N0, N0, N0, N2, N2, N1, N1, N2⟩ : Grid) P2 [M01, M02, M10] rfl rfl
    (collectScores_cons v120022112 (collectScores_cons t102022112 (collectScores_cons t100222112 collectScores_nil))) rfl

theorem v100022102 : readBoardAux P2 6 (⟨N1, N0, N0, N0, N2, N2, N1, N0, N2⟩ : Grid) P1 = some (ZM, some M10) :=
  readBoardAux_step P2 5 (⟨N1, N0, N0, N0, N2, N2, N1, N0, N2⟩ : Grid) P1 [M01, M02, M10, M21] rfl rfl
    (collectScores_cons v110022102 (collectScores_cons v101022102 (collectScores_cons t100122102 (collectScores_cons v100022112 collectScores_nil)))) rfl

theorem v100022100 : readBoardAux P2 7 (⟨N1, N0, N0, N0, N2, N2, N1, N0, N0⟩ : Grid) P2 = some (ZP, some M10) :=
  readBoardAux_step P2 6 (⟨N1, N0, N0, N0, N2, N2, N1, N0, N0⟩ : Grid) P2 [M01, M02, M10, M21, M22] rfl rfl
    (collectScores_cons v120022100 (collectScores_cons v102022100 (collectScores_cons t100222100 (collectScores_cons v100022120 (collectScores_cons v100022102 collectScores_nil))))) rfl

theorem v100022211 : readBoardAux P2 5 (⟨N1, N0, N0, N0, N2, N2, N2, N1, N1⟩ : Grid) P2 = some (ZP, some M01) :=
  readBoardAux_step P2 4 (⟨N1, N0, N0, N0, N2, N2, N2, N1, N1⟩ : Grid) P2 [M01, M02, M10] rfl rfl
    (collectScores_cons v120022211 (collectScores_cons t102022211 (collectScores_cons t100222211 collectScores_nil))) rfl

theorem v100022210 : readBoardAux P2 6 (⟨N1, N0, N0, N0, N2, N2, N2, N1, N0⟩ : Grid) P1 = some (ZP, some M01) :=
  readBoardAux_step P2 5 (⟨N1, N0, N0, N0, N2, N2, N2, N1, N0⟩ : Grid) P1 [M01, M02, M10, M22] rfl rfl
    (collectScores_cons v110022210 (collectScores_cons v101022210 (collectScores_cons v100122210 (collectScores_cons v100022211 collectScores_nil)))) rfl

theorem v100022012 : readBoardAux P2 6 (⟨N1, N0, N0, N0, N2, N2, N0, N1, N2⟩ : Grid) P1 = some (ZP, some M01) :=
  readBoardAux_step P2 5 (⟨N1, N0, N0, N0, N2, N2, N0, N1, N2⟩ : Grid) P1 [M01, M02, M10, M20] rfl rfl
    (collectScores_cons v110022012 (collectScores_cons v101022012 (collectScores_cons v100122012 (collectScores_cons v100022112 collectScores_nil)))) rfl

theorem v100022010 : readBoardAux P2 7 (⟨N1, N0, N0, N0, N2, N2, N0, N1, N0⟩ : Grid) P2 = some (ZP, some M02) :=
  readBoardAux_step P2 6 (⟨N1, N0, N0, N0, N2, N2, N0, N1, N0⟩ : Grid) P2 [M01, M02, M10, M20, M22] rfl rfl
    (collectScores_cons v120022010 (collectScores_cons v102022010 (collectScores_cons t100222010 (collectScores_cons v100022210 (collectScores_cons v100022012 collectScores_nil))))) rfl

theorem v100022201 : readBoardAux P2 6 (⟨N1, N0, N0, N0, N2, N2, N2, N0, N1⟩ : Grid) P1 = some (ZP, some M01) :=
  readBoardAux_step P2 5 (⟨N1, N0, N0, N0, N2, N2, N2, N0, N1⟩ : Grid) P1 [M01, M02, M10, M21] rfl rfl
    (collectScores_cons v110022201 (collectScores_cons v101022201 (collectScores_cons v100122201 (collectScores_cons v100022211 collectScores_nil)))) rfl

theorem v100022021 : readBoardAux P2 6 (⟨N1, N0, N0, N0, N2, N2, N0, N2, N1⟩ : Grid) P1 = some (ZP, some M01) :=
  readBoardAux_step P2 5 (⟨N1, N0, N0, N0, N2, N2, N0, N2, N1⟩ : Grid) P1 [M01, M02, M10, M20] rfl rfl
    (collectScores_cons v110022021 (collectScores_cons v101022021 (collectScores_cons v100122021 (collectScores_cons v100022121 collectScores_nil)))) rfl

theorem v100022001 : readBoardAux P2 7 (⟨N1, N0, N0, N0, N2, N2, N0, N0, N1⟩ : Grid) P2 = some (ZP, some M01) :=
  readBoardAux_step P2 6 (⟨N1, N0, N0, N0, N2, N2, N0, N0, N1⟩ : Grid) P2 [M01, M02, M10, M20, M21] rfl rfl
    (collectScores_cons v120022001 (collectScores_cons v102022001 (collectScores_cons t100222001 (collectScores_cons v100022201 (collectScores_cons v100022021 collectScores_nil))))) rfl

theorem v100022000 : readBoardAux P2 8 (⟨N1, N0, N0, N0, N2, N2, N0, N0, N0⟩ : Grid) P1 = some (Z0, some M10) :=
  readBoardAux_step P2 7 (⟨N1, N0, N0, N0, N2, N2, N0, N0, N0⟩ : Grid) P1 [M01, M02, M10, M20, M21, M22] rfl rfl
    (collectScores_cons v110022000 (collectScores_cons v101022000 (collectScores_cons v100122000 (collectScores_cons v100022100 (collectScores_cons v100022010 (collectScores_cons v100022001 collectScores_nil)))))) rfl

theorem t111020220 : readBoardAux P2 5 (⟨N1, N1, N1, N0, N2, N0, N2, N2, N0⟩ : Grid) P2 = some (ZM, none) :=
  rfl

theorem t110120222 : readBoardAux P2 4 (⟨N1, N1, N0, N1, N2, N0, N2, N2, N2⟩ : Grid) P1 = some (ZP, none) :=
  rfl

theorem v110120220 : readBoardAux P2 5 (⟨N1, N1, N0, N1, N2, N0, N2, N2, N0⟩ : Grid) P2 = some (ZP, some M02) :=
  readBoardAux_step P2 4 (⟨N1, N1, N0, N1, N2, N0, N2, N2, N0⟩ : Grid) P2 [M02, M12, M22] rfl rfl
    (collectScores_cons t112120220 (collectScores_cons v110122220 (collectScores_cons t110120222 collectScores_nil))) rfl

theorem t110021222 : readBoardAux P2 4 (⟨N1, N1, N0, N0, N2, N1, N2, N2, N2⟩ : Grid) P1 = some (ZP, none) :=
  rfl

theorem v110021220 : readBoardAux P2 5 (⟨N1, N1, N0, N0, N2, N1, N2, N2, N0⟩ : Grid) P2 = some (ZP, some M02) :=
  readBoardAux_step P2 4 (⟨N1, N1, N0, N0, N2, N1, N2, N2, N0⟩ : Grid) P2 [M02, M10, M22] rfl rfl
    (collectScores_cons t112021220 (collectScores_cons v110221220 (collectScores_cons t110021222 collectScores_nil))) rfl

theorem v110020221 : readBoardAux P2 5 (⟨N1, N1, N0, N0, N2, N0, N2, N2, N1⟩ : Grid) P2 = some (ZP, some M02) :=
  readBoardAux_step P2 4 (⟨N1, N1, N0, N0, N2, N0, N2, N2, N1⟩ : Grid) P2 [M02, M10, M12] rfl rfl
    (collectScores_cons t112020221 (collectScores_cons v110220221 (collectScores_cons v110022221 collectScores_nil))) rfl

theorem v110020220 : readBoardAux P2 6 (⟨N1, N1, N0, N0, N2, N0, N2, N2, N0⟩ : Grid) P1 = some (ZM, some M02) :=
  readBoardAux_step P2 5 (⟨N1, N1, N0, N0, N2, N0, N2, N2, N0⟩ : Grid) P1 [M02, M10, M12, M22] rfl rfl
    (collectScores_cons t111020220 (collectScores_cons v110120220 (collectScores_cons v110021220 (collectScores_cons v110020221 collectScores_nil)))) rfl

theorem t111020202 : readBoardAux P2 5 (⟨N1, N1, N1, N0, N2, N0, N2, N0, N2⟩ : Grid) P2 = some (ZM, none) :=
  rfl

theorem v110120202 : readBoardAux P2 5 (⟨N1, N1, N0, N1, N2, N0, N2, N0, N2⟩ : Grid) P2 = some (ZP, some M02) :=
  readBoardAux_step P2 4 (⟨N1, N1, N0, N1, N2, N0, N2, N0, N2⟩ : Grid) P2 [M02, M12, M21] rfl rfl
    (collectScores_cons t112120202 (collectScores_cons v110122202 (collectScores_cons t110120222 collectScores_nil))) rfl

theorem v110021202 : readBoardAux P2 5 (⟨N1, N1, N0, N0, N2, N1, N2, N0, N2⟩ : Grid) P2 = some (ZP, some M02) :=
  readBoardAux_step P2 4 (⟨N1, N1, N0, N0, N2, N1, N2, N0, N2⟩ : Grid) P2 [M02, M10, M21] rfl rfl
    (collectScores_cons t112021202 (collectScores_cons v110221202 (collectScores_cons t110021222 collectScores_nil))) rfl

theorem v110020212 : readBoardAux P2 5 (⟨N1, N1, N0, N0, N2, N0, N2, N1, N2⟩ : Grid) P2 = some (ZP, some M02) :=
  readBoardAux_step P2 4 (⟨N1, N1, N0, N0, N2, N0, N2, N1, N2⟩ : Grid) P2 [M02, M10, M12] rfl rfl
    (collectScores_cons t112020212 (collectScores_cons v110220212 (collectScores_cons v110022212 collectScores_nil))) rfl

theorem v110020202 : readBoardAux P2 6 (⟨N1, N1, N0, N0, N2, N0, N2, N0, N2⟩ : Grid) P1 = some (ZM, some M02) :=
  readBoardAux_step P2 5 (⟨N1, N1, N0, N0, N2, N0, N2, N0, N2⟩ : Grid) P1 [M02, M10, M12, M21] rfl rfl
    (collectScores_cons t111020202 (collectScores_cons v110120202 (collectScores_cons v110021202 (collectScores_cons v110020212 collectScores_nil)))) rfl

theorem v110020200 : readBoardAux P2 7 (⟨N1, N1, N0, N0, N2, N0, N2, N0, N0⟩ : Grid) P2 = some (ZP, some M02) :=
  readBoardAux_step P2 6 (⟨N1, N1, N0, N0, N2, N0, N2, N0, N0⟩ : Grid) P2 [M02, M10, M12, M21, M22] rfl rfl
    (collectScores_cons t112020200 (collectScores_cons v110220200 (collectScores_cons v110022200 (collectScores_cons v110020220 (collectScores_cons v110020202 collectScores_nil))))) rfl

theorem t101120222 : readBoardAux P2 4 (⟨N1, N0, N1, N1, N2, N0, N2, N2, N2⟩ : Grid) P1 = some (ZP, none) :=
  rfl

theorem v101120220 : readBoardAux P2 5 (⟨N1, N0, N1, N1, N2, N0, N2, N2, N0⟩ : Grid) P2 = some (ZP, some M01) :=
  readBoardAux_step P2 4 (⟨N1, N0, N1, N1, N2, N0, N2, N2, N0⟩ : Grid) P2 [M01, M12, M22] rfl rfl
    (collectScores_cons t121120220 (collectScores_cons v101122220 (collectScores_cons t101120222 collectScores_nil))) rfl

theorem t101021222 : readBoardAux P2 4 (⟨N1, N0, N1, N0, N2, N1, N2, N2, N2⟩ : Grid) P1 = some (ZP, none) :=
  rfl

theorem v101021220 : readBoardAux P2 5 (⟨N1, N0, N1, N0, N2, N1, N2, N2, N0⟩ : Grid) P2 = some (ZP, some M01) :=
  readBoardAux_step P2 4 (⟨N1, N0, N1, N0, N2, N1, N2, N2, N0⟩ : Grid) P2 [M01, M10, M22] rfl rfl
    (collectScores_cons t121021220 (collectScores_cons v101221220 (collectScores_cons t101021222 collectScores_nil))) rfl

theorem v101020221 : readBoardAux P2 5 (⟨N1, N0, N1, N0, N2, N0, N2, N2, N1⟩ : Grid) P2 = some (ZP, some M01) :=
  readBoardAux_step P2 4 (⟨N1, N0, N1, N0, N2, N0, N2, N2, N1⟩ : Grid) P2 [M01, M10, M12] rfl rfl
    (collectScores_cons t121020221 (collectScores_cons v101220221 (collectScores_cons v101022221 collectScores_nil))) rfl

theorem v101020220 : readBoardAux P2 6 (⟨N1, N0, N1, N0, N2, N0, N2, N2, N0⟩ : Grid) P1 = some (ZM, some M01) :=
  readBoardAux_step P2 5 (⟨N1, N0, N1, N0, N2, N0, N2, N2, N0⟩ : Grid) P1 [M01, M10, M12, M22] rfl rfl
    (collectScores_cons t111020220 (collectScores_cons v101120220 (collectScores_cons v101021220 (collectScores_cons v101020221 collectScores_nil)))) rfl

theorem v101120202 : readBoardAux P2 5 (⟨N1, N0, N1, N1, N2, N0, N2, N0, N2⟩ : Grid) P2 = some (ZP, some M21) :=
  readBoardAux_step P2 4 (⟨N1, N0, N1, N1, N2, N0, N2, N0, N2⟩ : Grid) P2 [M01, M12, M21] rfl rfl
    (collectScores_cons v121120202 (collectScores_cons v101122202 (collectScores_cons t101120222 collectScores_nil))) rfl

theorem v101021202 : readBoardAux P2 5 (⟨N1, N0, N1, N0, N2, N1, N2, N0, N2⟩ : Grid) P2 = some (ZP, some M21) :=
  readBoardAux_step P2 4 (⟨N1, N0, N1, N0, N2, N1, N2, N0, N2⟩ : Grid) P2 [M01, M10, M21] rfl rfl
    (collectScores_cons v121021202 (collectScores_cons v101221202 (collectScores_cons t101021222 collectScores_nil))) rfl

theorem v101020212 : readBoardAux P2 5 (⟨N1, N0, N1, N0, N2, N0, N2, N1, N2⟩ : Grid) P2 = some (Z0, some M01) :=
  readBoardAux_step P2 4 (⟨N1, N0, N1, N0, N2, N0, N2, N1, N2⟩ : Grid) P2 [M01, M10, M12] rfl rfl
    (collectScores_cons v121020212 (collectScores_cons v101220212 (collectScores_cons v101022212 collectScores_nil))) rfl

theorem v101020202 : readBoardAux P2 6 (⟨N1, N0, N1, N0, N2, N0, N2, N0, N2⟩ : Grid) P1 = some (ZM, some M01) :=
  readBoardAux_step P2 5 (⟨N1, N0, N1, N0, N2, N0, N2, N0, N2⟩ : Grid) P1 [M01, M10, M12, M21] rfl rfl
    (collectScores_cons t111020202 (collectScores_cons v101120202 (collectScores_cons v101021202 (collectScores_cons v101020212 collectScores_nil)))) rfl

theorem v101020200 : readBoardAux P2 7 (⟨N1, N0, N1, N0, N2, N0, N2, N0, N0⟩ : Grid) P2 = some (Z0, some M01) :=
  readBoardAux_step P2 6 (⟨N1, N0, N1, N0, N2, N0, N2, N0, N0⟩ : Grid) P2 [M01, M10, M12, M21, M22] rfl rfl
    (collectScores_cons v121020200 (collectScores_cons v101220200 (collectScores_cons v101022200 (collectScores_cons v101020220 (collectScores_cons v101020202 collectScores_nil))))) rfl

theorem t100121222 : readBoardAux P2 4 (⟨N1, N0, N0, N1, N2, N1, N2, N2, N2⟩ : Grid) P1 = some (ZP, none) :=
  rfl

theorem v100121220 : readBoardAux P2 5 (⟨N1, N0, N0, N1, N2, N1, N2, N2, N0⟩ : Grid) P2 = some (ZP, some M01) :=
  readBoardAux_step P2 4 (⟨N1, N0, N0, N1, N2, N1, N2, N2, N0⟩ : Grid) P2 [M01, M02, M22] rfl rfl
    (collectScores_cons t120121220 (collectScores_cons t102121220 (collectScores_cons t100121222 collectScores_nil))) rfl

theorem v100120221 : readBoardAux P2 5 (⟨N1, N0, N0, N1, N2, N0, N2, N2, N1⟩ : Grid) P2 = some (ZP, some M01) :=
  readBoardAux_step P2 4 (⟨N1, N0, N0, N1, N2, N0, N2, N2, N1⟩ : Grid) P2 [M01, M02, M12] rfl rfl
    (collectScores_cons t120120221 (collectScores_cons t102120221 (collectScores_cons v100122221 collectScores_nil))) rfl

theorem v100120220 : readBoardAux P2 6 (⟨N1, N0, N0, N1, N2, N0, N2, N2, N0⟩ : Grid) P1 = some (ZP, some M01) :=
  readBoardAux_step P2 5 (⟨N1, N0, N0, N1, N2, N0, N2, N2, N0⟩ : Grid) P1 [M01, M02, M12, M22] rfl rfl
    (collectScores_cons v110120220 (collectScores_cons v101120220 (collectScores_cons v100121220 (collectScores_cons v100120221 collectScores_nil)))) rfl

theorem v100121202 : readBoardAux P2 5 (⟨N1, N0, N0, N1, N2, N1, N2, N0, N2⟩ : Grid) P2 = some (ZP, some M01) :=
  readBoardAux_step P2 4 (⟨N1, N0, N0, N1, N2, N1, N2, N0, N2⟩ : Grid) P2 [M01, M02, M21] rfl rfl
    (collectScores_cons v120121202 (collectScores_cons t102121202 (collectScores_cons t100121222 collectScores_nil))) rfl

theorem v100120212 : readBoardAux P2 5 (⟨N1, N0, N0, N1, N2, N0, N2, N1, N2⟩ : Grid) P2 = some (ZP, some M02) :=
  readBoardAux_step P2 4 (⟨N1, N0, N0, N1, N2, N0, N2, N1, N2⟩ : Grid) P2 [M01, M02, M12] rfl rfl
    (collectScores_cons v120120212 (collectScores_cons t102120212 (collectScores_cons v100122212 collectScores_nil))) rfl

theorem v100120202 : readBoardAux P2 6 (⟨N1, N0, N0, N1, N2, N0, N2, N0, N2⟩ : Grid) P1 = some (ZP, some M01) :=
  readBoardAux_step P2 5 (⟨N1, N0, N0, N1, N2, N0, N2, N0, N2⟩ : Grid) P1 [M01, M02, M12, M21] rfl rfl
    (collectScores_cons v110120202 (collectScores_cons v101120202 (collectScores_cons v100121202 (collectScores_cons v100120212 collectScores_nil)))) rfl

theorem v100120200 : readBoardAux P2 7 (⟨N1, N0, N0, N1, N2, N0, N2, N0, N0⟩ : Grid) P2 = some (ZP, some M01) :=
  readBoardAux_step P2 6 (⟨N1, N0, N0, N1, N2, N0, N2, N0, N0⟩ : Grid) P2 [M01, M02, M12, M21, M22] rfl rfl
    (collectScores_cons v120120200 (collectScores_cons t102120200 (collectScores_cons v100122200 (collectScores_cons v100120220 (collectScores_cons v100120202 collectScores_nil))))) rfl

theorem v100021221 : readBoardAux P2 5 (⟨N1, N0, N0, N0, N2, N1, N2, N2, N1⟩ : Grid) P2 = some (ZP, some M01) :=
  readBoardAux_step P2 4 (⟨N1, N0, N0, N0, N2, N1, N2, N2, N1⟩ : Grid) P2 [M01, M02, M10] rfl rfl
    (collectScores_cons t120021221 (collectScores_cons t102021221 (collectScores_cons v100221221 collectScores_nil))) rfl

theorem v100021220 : readBoardAux P2 6 (⟨N1, N0, N0, N0, N2, N1, N2, N2, N0⟩ : Grid) P1 = some (ZP, some M01) :=
  readBoardAux_step P2 5 (⟨N1, N0, N0, N0, N2, N1, N2, N2, N0⟩ : Grid) P1 [M01, M02, M10, M22] rfl rfl
    (collectScores_cons v110021220 (collectScores_cons v101021220 (collectScores_cons v100121220 (collectScores_cons v100021221 collectScores_nil)))) rfl

theorem v100021212 : readBoardAux P2 5 (⟨N1, N0, N0, N0, N2, N1, N2, N1, N2⟩ : Grid) P2 = some (ZP, some M02) :=
  readBoardAux_step P2 4 (⟨N1, N0, N0, N0, N2, N1, N2, N1, N2⟩ : Grid) P2 [M01, M02, M10] rfl rfl
    (collectScores_cons v120021212 (collectScores_cons t102021212 (collectScores_cons v100221212 collectScores_nil))) rfl

theorem v100021202 : readBoardAux P2 6 (⟨N1, N0, N0, N0, N2, N1, N2, N0, N2⟩ : Grid) P1 = some (ZP, some M01) :=
  readBoardAux_step P2 5 (⟨N1, N0, N0, N0, N2, N1, N2, N0, N2⟩ : Grid) P1 [M01, M02, M10, M21] rfl rfl
    (collectScores_cons v110021202 (collectScores_cons v101021202 (collectScores_cons v100121202 (collectScores_cons v100021212 collectScores_nil)))) rfl

theorem v100021200 : readBoardAux P2 7 (⟨N1, N0, N0, N0, N2, N1, N2, N0, N0⟩ : Grid) P2 = some (ZP, some M01) :=
  readBoardAux_step P2 6 (⟨N1, N0, N0, N0, N2, N1, N2, N0, N0⟩ : Grid) P2 [M01, M02, M10, M21, M22] rfl rfl
    (collectScores_cons v120021200 (collectScores_cons t102021200 (collectScores_cons v100221200 (collectScores_cons v100021220 (collectScores_cons v100021202 collectScores_nil))))) rfl

theorem v100020212 : readBoardAux P2 6 (⟨N1, N0, N0, N0, N2, N0, N2, N1, N2⟩ : Grid) P1 = some (Z0, some M02) :=
  readBoardAux_step P2 5 (⟨N1, N0, N0, N0, N2, N0, N2, N1, N2⟩ : Grid) P1 [M01, M02, M10, M12] rfl rfl
    (collectScores_cons v110020212 (collectScores_cons v101020212 (collectScores_cons v100120212 (collectScores_cons v100021212 collectScores_nil)))) rfl

theorem v100020210 : readBoardAux P2 7 (⟨N1, N0, N0, N0, N2, N0, N2, N1, N0⟩ : Grid) P2 = some (ZP, some M02) :=
  readBoardAux_step P2 6 (⟨N1, N0, N0, N0, N2, N0, N2, N1, N0⟩ : Grid) P2 [M01, M02, M10, M12, M22] rfl rfl
    (collectScores_cons v120020210 (collectScores_cons t102020210 (collectScores_cons v100220210 (collectScores_cons v100022210 (collectScores_cons v100020212 collectScores_nil))))) rfl

theorem v100020221 : readBoardAux P2 6 (⟨N1, N0, N0, N0, N2, N0, N2, N2, N1⟩ : Grid) P1 = some (ZP, some M01) :=
  readBoardAux_step P2 5 (⟨N1, N0, N0, N0, N2, N0, N2, N2, N1⟩ : Grid) P1 [M01, M02, M10, M12] rfl rfl
    (collectScores_cons v110020221 (collectScores_cons v101020221 (collectScores_cons v100120221 (collectScores_cons v100021221 collectScores_nil)))) rfl

theorem v100020201 : readBoardAux P2 7 (⟨N1, N0, N0, N0, N2, N0, N2, N0, N1⟩ : Grid) P2 = some (ZP, some M01) :=
  readBoardAux_step P2 6 (⟨N1, N0, N0, N0, N2, N0, N2, N0, N1⟩ : Grid) P2 [M01, M02, M10, M12, M21] rfl rfl
    (collectScores_cons v120020201 (collectScores_cons t102020201 (collectScores_cons v100220201 (collectScores_cons v100022201 (collectScores_cons v100020221 collectScores_nil))))) rfl

theorem v100020200 : readBoardAux P2 8 (⟨N1, N0, N0, N0, N2, N0, N2, N0, N0⟩ : Grid) P1 = some (Z0, some M02) :=
  readBoardAux_step P2 7 (⟨N1, N0, N0, N0, N2, N0, N2, N0, N0⟩ : Grid) P1 [M01, M02, M10, M12, M21, M22] rfl rfl
    (collectScores_cons v110020200 (collectScores_cons v101020200 (collectScores_cons v100120200 (collectScores_cons v100021200 (collectScores_cons v100020210 (collectScores_cons v100020201 collectScores_nil)))))) rfl

theorem t111020022 : readBoardAux P2 5 (⟨N1, N1, N1, N0, N2, N0, N0, N2, N2⟩ : Grid) P2 = some (ZM, none) :=
  rfl

theorem v110120022 : readBoardAux P2 5 (⟨N1, N1, N0, N1, N2, N0, N0, N2, N2⟩ : Grid) P2 = some (ZP, some M20) :=
  readBoardAux_step P2 4 (⟨N1, N1, N0, N1, N2, N0, N0, N2, N2⟩ : Grid) P2 [M02, M12, M20] rfl rfl
    (collectScores_cons v112120022 (collectScores_cons v110122022 (collectScores_cons t110120222 collectScores_nil))) rfl

theorem v110021022 : readBoardAux P2 5 (⟨N1, N1, N0, N0, N2, N1, N0, N2, N2⟩ : Grid) P2 = some (ZP, some M20) :=
  readBoardAux_step P2 4 (⟨N1, N1, N0, N0, N2, N1, N0, N2, N2⟩ : Grid) P2 [M02, M10, M20] rfl rfl
    (collectScores_cons v112021022 (collectScores_cons v110221022 (collectScores_cons t110021222 collectScores_nil))) rfl

theorem v110020122 : readBoardAux P2 5 (⟨N1, N1, N0, N0, N2, N0, N1, N2, N2⟩ : Grid) P2 = some (ZM, some M02) :=
  readBoardAux_step P2 4 (⟨N1, N1, N0, N0, N2, N0, N1, N2, N2⟩ : Grid) P2 [M02, M10, M12] rfl rfl
    (collectScores_cons v112020122 (collectScores_cons v110220122 (collectScores_cons v110022122 collectScores_nil))) rfl

theorem v110020022 : readBoardAux P2 6 (⟨N1, N1, N0, N0, N2, N0, N0, N2, N2⟩ : Grid) P1 = some (ZM, some M02) :=
  readBoardAux_step P2 5 (⟨N1, N1, N0, N0, N2, N0, N0, N2, N2⟩ : Grid) P1 [M02, M10, M12, M20] rfl rfl
    (collectScores_cons t111020022 (collectScores_cons v110120022 (collectScores_cons v110021022 (collectScores_cons v110020122 collectScores_nil)))) rfl

theorem v110020020 : readBoardAux P2 7 (⟨N1, N1, N0, N0, N2, N0, N0, N2, N0⟩ : Grid) P2 = some (Z0, some M02) :=
  readBoardAux_step P2 6 (⟨N1, N1, N0, N0, N2, N0, N0, N2, N0⟩ : Grid) P2 [M02, M10, M12, M20, M22] rfl rfl
    (collectScores_cons v112020020 (collectScores_cons v110220020 (collectScores_cons v110022020 (collectScores_cons v110020220 (collectScores_cons v110020022 collectScores_nil))))) rfl

theorem v101120022 : readBoardAux P2 5 (⟨N1, N0, N1, N1, N2, N0, N0, N2, N2⟩ : Grid) P2 = some (ZP, some M01) :=
  readBoardAux_step P2 4 (⟨N1, N0, N1, N1, N2, N0, N0, N2, N2⟩ : Grid) P2 [M01, M12, M20] rfl rfl
    (collectScores_cons t121120022 (collectScores_cons v101122022 (collectScores_cons t101120222 collectScores_nil))) rfl

theorem v101021022 : readBoardAux P2 5 (⟨N1, N0, N1, N0, N2, N1, N0, N2, N2⟩ : Grid) P2 = some (ZP, some M01) :=
  readBoardAux_step P2 4 (⟨N1, N0, N1, N0, N2, N1, N0, N2, N2⟩ : Grid) P2 [M01, M10, M20] rfl rfl
    (collectScores_cons t121021022 (collectScores_cons v101221022 (collectScores_cons t101021222 collectScores_nil))) rfl

theorem v101020122 : readBoardAux P2 5 (⟨N1, N0, N1, N0, N2, N0, N1, N2, N2⟩ : Grid) P2 = some (ZP, some M01) :=
  readBoardAux_step P2 4 (⟨N1, N0, N1, N0, N2, N0, N1, N2, N2⟩ : Grid) P2 [M01, M10, M12] rfl rfl
    (collectScores_cons t121020122 (collectScores_cons v101220122 (collectScores_cons v101022122 collectScores_nil))) rfl

theorem v101020022 : readBoardAux P2 6 (⟨N1, N0, N1, N0, N2, N0, N0, N2, N2⟩ : Grid) P1 = some (ZM, some M01) :=
  readBoardAux_step P2 5 (⟨N1, N0, N1, N0, N2, N0, N0, N2, N2⟩ : Grid) P1 [M01, M10, M12, M20] rfl rfl
    (collectScores_cons t111020022 (collectScores_cons v101120022 (collectScores_cons v101021022 (collectScores_cons v101020122 collectScores_nil)))) rfl

theorem v101020020 : readBoardAux P2 7 (⟨N1, N0, N1, N0, N2, N0, N0, N2, N0⟩ : Grid) P2 = some (ZP, some M01) :=
  readBoardAux_step P2 6 (⟨N1, N0, N1, N0, N2, N0, N0, N2, N0⟩ : Grid) P2 [M01, M10, M12, M20, M22] rfl rfl
    (collectScores_cons t121020020 (collectScores_cons v101220020 (collectScores_cons v101022020 (collectScores_cons v101020220 (collectScores_cons v101020022 collectScores_nil))))) rfl

theorem v100121022 : readBoardAux P2 5 (⟨N1, N0, N0, N1, N2, N1, N0, N2, N2⟩ : Grid) P2 = some (ZP, some M01) :=
  readBoardAux_step P2 4 (⟨N1, N0, N0, N1, N2, N1, N0, N2, N2⟩ : Grid) P2 [M01, M02, M20] rfl rfl
    (collectScores_cons t120121022 (collectScores_cons v102121022 (collectScores_cons t100121222 collectScores_nil))) rfl

theorem t100120122 : readBoardAux P2 5 (⟨N1, N0, N0, N1, N2, N0, N1, N2, N2⟩ : Grid) P2 = some (ZM, none) :=
  rfl

theorem v100120022 : readBoardAux P2 6 (⟨N1, N0, N0, N1, N2, N0, N0, N2, N2⟩ : Grid) P1 = some (ZM, some M20) :=
  readBoardAux_step P2 5 (⟨N1, N0, N0, N1, N2, N0, N0, N2, N2⟩ : Grid) P1 [M01, M02, M12, M20] rfl rfl
    (collectScores_cons v110120022 (collectScores_cons v101120022 (collectScores_cons v100121022 (collectScores_cons t100120122 collectScores_nil)))) rfl

theorem v100120020 : readBoardAux P2 7 (⟨N1, N0, N0, N1, N2, N0, N0, N2, N0⟩ : Grid) P2 = some (ZP, some M01) :=
  readBoardAux_step P2 6 (⟨N1, N0, N0, N1, N2, N0, N0, N2, N0⟩ : Grid) P2 [M01, M02, M12, M20, M22] rfl rfl
    (collectScores_cons t120120020 (collectScores_cons v102120020 (collectScores_cons v100122020 (collectScores_cons v100120220 (collectScores_cons v100120022 collectScores_nil))))) rfl

theorem v100021122 : readBoardAux P2 5 (⟨N1, N0, N0, N0, N2, N1, N1, N2, N2⟩ : Grid) P2 = some (ZP, some M01) :=
  readBoardAux_step P2 4 (⟨N1, N0, N0, N0, N2, N1, N1, N2, N2⟩ : Grid) P2 [M01, M02, M10] rfl rfl
    (collectScores_cons t120021122 (collectScores_cons v102021122 (collectScores_cons v100221122 collectScores_nil))) rfl

theorem v100021022 : readBoardAux P2 6 (⟨N1, N0, N0, N0, N2, N1, N0, N2, N2⟩ : Grid) P1 = some (ZP, some M01) :=
  readBoardAux_step P2 5 (⟨N1, N0, N0, N0, N2, N1, N0, N2, N2⟩ : Grid) P1 [M01, M02, M10, M20] rfl rfl
    (collectScores_cons v110021022 (collectScores_cons v101021022 (collectScores_cons v100121022 (collectScores_cons v100021122 collectScores_nil)))) rfl

theorem v100021020 : readBoardAux P2 7 (⟨N1, N0, N0, N0, N2, N1, N0, N2, N0⟩ : Grid) P2 = some (ZP, some M01) :=
  readBoardAux_step P2 6 (⟨N1, N0, N0, N0, N2, N1, N0, N2, N0⟩ : Grid) P2 [M01, M02, M10, M20, M22] rfl rfl
    (collectScores_cons t120021020 (collectScores_cons v102021020 (collectScores_cons v100221020 (collectScores_cons v100021220 (collectScores_cons v100021022 collectScores_nil))))) rfl

theorem v100020122 : readBoardAux P2 6 (⟨N1, N0, N0, N0, N2, N0, N1, N2, N2⟩ : Grid) P1 = some (ZM, some M01) :=
  readBoardAux_step P2 5 (⟨N1, N0, N0, N0, N2, N0, N1, N2, N2⟩ : Grid) P1 [M01, M02, M10, M12] rfl rfl
    (collectScores_cons v110020122 (collectScores_cons v101020122 (collectScores_cons t100120122 (collectScores_cons v100021122 collectScores_nil)))) rfl

theorem v100020120 : readBoardAux P2 7 (⟨N1, N0, N0, N0, N2, N0, N1, N2, N0⟩ : Grid) P2 = some (ZP, some M01) :=
  readBoardAux_step P2 6 (⟨N1, N0, N0, N0, N2, N0, N1, N2, N0⟩ : Grid) P2 [M01, M02, M10, M12, M22] rfl rfl
    (collectScores_cons t120020120 (collectScores_cons v102020120 (collectScores_cons v100220120 (collectScores_cons v100022120 (collectScores_cons v100020122 collectScores_nil))))) rfl

theorem v100020021 : readBoardAux P2 7 (⟨N1, N0, N0, N0, N2, N0, N0, N2, N1⟩ : Grid) P2 = some (ZP, some M01) :=
  readBoardAux_step P2 6 (⟨N1, N0, N0, N0, N2, N0, N0, N2, N1⟩ : Grid) P2 [M01, M02, M10, M12, M20] rfl rfl
    (collectScores_cons t120020021 (collectScores_cons v102020021 (collectScores_cons v100220021 (collectScores_cons v100022021 (collectScores_cons v100020221 collectScores_nil))))) rfl

theorem v100020020 : readBoardAux P2 8 (⟨N1, N0, N0, N0, N2, N0, N0, N2, N0⟩ : Grid) P1 = some (Z0, some M01) :=
  readBoardAux_step P2 7 (⟨N1, N0, N0, N0, N2, N0, N0, N2, N0⟩ : Grid) P1 [M01, M02, M10, M12, M20, M22] rfl rfl
    (collectScores_cons v110020020 (collectScores_cons v101020020 (collectScores_cons v100120020 (collectScores_cons v100021020 (collectScores_cons v100020120 (collectScores_cons v100020021 collectScores_nil)))))) rfl

theorem v110020002 : readBoardAux P2 7 (⟨N1, N1, N0, N0, N2, N0, N0, N0, N2⟩ : Grid) P2 = some (ZP, some M02) :=
  readBoardAux_step P2 6 (⟨N1, N1, N0, N0, N2, N0, N0, N0, N2⟩ : Grid) P2 [M02, M10, M12, M20, M21] rfl rfl
    (collectScores_cons v112020002 (collectScores_cons v110220002 (collectScores_cons v110022002 (collectScores_cons v110020202 (collectScores_cons v110020022 collectScores_nil))))) rfl

theorem v101020002 : readBoardAux P2 7 (⟨N1, N0, N1, N0, N2, N0, N0, N0, N2⟩ : Grid) P2 = some (Z0, some M01) :=
  readBoardAux_step P2 6 (⟨N1, N0, N1, N0, N2, N0, N0, N0, N2⟩ : Grid) P2 [M01, M10, M12, M20, M21] rfl rfl
    (collectScores_cons v121020002 (collectScores_cons v101220002 (collectScores_cons v101022002 (collectScores_cons v101020202 (collectScores_cons v101020022 collectScores_nil))))) rfl

theorem v100120002 : readBoardAux P2 7 (⟨N1, N0, N0, N1, N2, N0, N0, N0, N2⟩ : Grid) P2 = some (ZP, some M20) :=
  readBoardAux_step P2 6 (⟨N1, N0, N0, N1, N2, N0, N0, N0, N2⟩ : Grid) P2 [M01, M02, M12, M20, M21] rfl rfl
    (collectScores_cons v120120002 (collectScores_cons v102120002 (collectScores_cons v100122002 (collectScores_cons v100120202 (collectScores_cons v100120022 collectScores_nil))))) rfl

theorem v100021002 : readBoardAux P2 7 (⟨N1, N0, N0, N0, N2, N1, N0, N0, N2⟩ : Grid) P2 = some (ZP, some M20) :=
  readBoardAux_step P2 6 (⟨N1, N0, N0, N0, N2, N1, N0, N0, N2⟩ : Grid) P2 [M01, M02, M10, M20, M21] rfl rfl
    (collectScores_cons v120021002 (collectScores_cons v102021002 (collectScores_cons v100221002 (collectScores_cons v100021202 (collectScores_cons v100021022 collectScores_nil))))) rfl

theorem v100020102 : readBoardAux P2 7 (⟨N1, N0, N0, N0, N2, N0, N1, N0, N2⟩ : Grid) P2 = some (Z0, some M10) :=
  readBoardAux_step P2 6 (⟨N1, N0, N0, N0, N2, N0, N1, N0, N2⟩ : Grid) P2 [M01, M02, M10, M12, M21] rfl rfl
    (collectScores_cons v120020102 (collectScores_cons v102020102 (collectScores_cons v100220102 (collectScores_cons v100022102 (collectScores_cons v100020122 collectScores_nil))))) rfl

theorem v100020012 : readBoardAux P2 7 (⟨N1, N0, N0, N0, N2, N0, N0, N1, N2⟩ : Grid) P2 = some (ZP, some M02) :=
  readBoardAux_step P2 6 (⟨N1, N0, N0, N0, N2, N0, N0, N1, N2⟩ : Grid) P2 [M01, M02, M10, M12, M20] rfl rfl
    (collectScores_cons v120020012 (collectScores_cons v102020012 (collectScores_cons v100220012 (collectScores_cons v100022012 (collectScores_cons v100020212 collectScores_nil))))) rfl

theorem v100020002 : readBoardAux P2 8 (⟨N1, N0, N0, N0, N2, N0, N0, N0, N2⟩ : Grid) P1 = some (Z0, some M02) :=
  readBoardAux_step P2 7 (⟨N1, N0, N0, N0, N2, N0, N0, N0, N2⟩ : Grid) P1 [M01, M02, M10, M12, M20, M21] rfl rfl
    (collectScores_cons v110020002 (collectScores_cons v101020002 (collectScores_cons v100120002 (collectScores_cons v100021002 (collectScores_cons v100020102 (collectScores_cons v100020012 collectScores_nil)))))) rfl

theorem v100020000 : readBoardAux P2 9 (⟨N1, N0, N0, N0, N2, N0, N0, N0, N0⟩ : Grid) P2 = some (Z0, some M01) :=
  readBoardAux_step P2 8 (⟨N1, N0, N0, N0, N2, N0, N0, N0, N0⟩ : Grid) P2 [M01, M02, M10, M12, M20, M21, M22] rfl rfl
    (collectScores_cons v120020000 (collectScores_cons v102020000 (collectScores_cons v100220000 (collectScores_cons v100022000 (collectScores_cons v100020200 (collectScores_cons v100020020 (collectScores_cons v100020002 collectScores_nil))))))) rfl

theorem v011122221 : readBoardAux P2 3 (⟨N0, N1, N1, N1, N2, N2, N2, N2, N1⟩ : Grid) P2 = some (Z0, some M00) :=
  readBoardAux_step P2 2 (⟨N0, N1, N1, N1, N2, N2, N2, N2, N1⟩ : Grid) P2 [M00] rfl rfl
    (collectScores_cons t211122221 collectScores_nil) rfl

theorem v011122220 : readBoardAux P2 4 (⟨N0, N1, N1, N1, N2, N2, N2, N2, N0⟩ : Grid) P1 = some (ZM, some M00) :=
  readBoardAux_step P2 3 (⟨N0, N1, N1, N1, N2, N2, N2, N2, N0⟩ : Grid) P1 [M00, M22] rfl rfl
    (collectScores_cons t111122220 (collectScores_cons v011122221 collectScores_nil)) rfl

theorem v011122212 : readBoardAux P2 3 (⟨N0, N1, N1, N1, N2, N2, N2, N1, N2⟩ : Grid) P2 = some (ZP, some M00) :=
  readBoardAux_step P2 2 (⟨N0, N1, N1, N1, N2, N2, N2, N1, N2⟩ : Grid) P2 [M00] rfl rfl
    (collectScores_cons t211122212 collectScores_nil) rfl

theorem v011122202 : readBoardAux P2 4 (⟨N0, N1, N1, N1, N2, N2, N2, N0, N2⟩ : Grid) P1 = some (ZM, some M00) :=
  readBoardAux_step P2 3 (⟨N0, N1, N1, N1, N2, N2, N2, N0, N2⟩ : Grid) P1 [M00, M21] rfl rfl
    (collectScores_cons t111122202 (collectScores_cons v011122212 collectScores_nil)) rfl

theorem v011122200 : readBoardAux P2 5 (⟨N0, N1, N1, N1, N2, N2, N2, N0, N0⟩ : Grid) P2 = some (Z0, some M00) :=
  readBoardAux_step P2 4 (⟨N0, N1, N1, N1, N2, N2, N2, N0, N0⟩ : Grid) P2 [M00, M21, M22] rfl rfl
    (collectScores_cons v211122200 (collectScores_cons v011122220 (collectScores_cons v011122202 collectScores_nil))) rfl

theorem v011022212 : readBoardAux P2 4 (⟨N0, N1, N1, N0, N2, N2, N2, N1, N2⟩ : Grid) P1 = some (ZM, some M00) :=
  readBoardAux_step P2 3 (⟨N0, N1, N1, N0, N2, N2, N2, N1, N2⟩ : Grid) P1 [M00, M10] rfl rfl
    (collectScores_cons t111022212 (collectScores_cons v011122212 collectScores_nil)) rfl

theorem v011022210 : readBoardAux P2 5 (⟨N0, N1, N1, N0, N2, N2, N2, N1, N0⟩ : Grid) P2 = some (ZP, some M00) :=
  readBoardAux_step P2 4 (⟨N0, N1, N1, N0, N2, N2, N2, N1, N0⟩ : Grid) P2 [M00, M10, M22] rfl rfl
    (collectScores_cons v211022210 (collectScores_cons t011222210 (collectScores_cons v011022212 collectScores_nil))) rfl

theorem v011022221 : readBoardAux P2 4 (⟨N0, N1, N1, N0, N2, N2, N2, N2, N1⟩ : Grid) P1 = some (ZM, some M00) :=
  readBoardAux_step P2 3 (⟨N0, N1, N1, N0, N2, N2, N2, N2, N1⟩ : Grid) P1 [M00, M10] rfl rfl
    (collectScores_cons t111022221 (collectScores_cons v011122221 collectScores_nil)) rfl

theorem v011022201 : readBoardAux P2 5 (⟨N0, N1, N1, N0, N2, N2, N2, N0, N1⟩ : Grid) P2 = some (ZP, some M10) :=
  readBoardAux_step P2 4 (⟨N0, N1, N1, N0, N2, N2, N2, N0, N1⟩ : Grid) P2 [M00, M10, M21] rfl rfl
    (collectScores_cons v211022201 (collectScores_cons t011222201 (collectScores_cons v011022221 collectScores_nil))) rfl

theorem v011022200 : readBoardAux P2 6 (⟨N0, N1, N1, N0, N2, N2, N2, N0, N0⟩ : Grid) P1 = some (ZM, some M00) :=
  readBoardAux_step P2 5 (⟨N0, N1, N1, N0, N2, N2, N2, N0, N0⟩ : Grid) P1 [M00, M10, M21, M22] rfl rfl
    (collectScores_cons t111022200 (collectScores_cons v011122200 (collectScores_cons v011022210 (collectScores_cons v011022201 collectScores_nil)))) rfl

theorem v011122122 : readBoardAux P2 3 (⟨N0, N1, N1, N1, N2, N2, N1, N2, N2⟩ : Grid) P2 = some (ZP, some M00) :=
  readBoardAux_step P2 2 (⟨N0, N1, N1, N1, N2, N2, N1, N2, N2⟩ : Grid) P2 [M00] rfl rfl
    (collectScores_cons t211122122 collectScores_nil) rfl

theorem v011122022 : readBoardAux P2 4 (⟨N0, N1, N1, N1, N2, N2, N0, N2, N2⟩ : Grid) P1 = some (ZM, some M00) :=
  readBoardAux_step P2 3 (⟨N0, N1, N1, N1, N2, N2, N0, N2, N2⟩ : Grid) P1 [M00, M20] rfl rfl
    (collectScores_cons t111122022 (collectScores_cons v011122122 collectScores_nil)) rfl

theorem v011122020 : readBoardAux P2 5 (⟨N0, N1, N1, N1, N2, N2, N0, N2, N0⟩ : Grid) P2 = some (Z0, some M00) :=
  readBoardAux_step P2 4 (⟨N0, N1, N1, N1, N2, N2, N0, N2, N0⟩ : Grid) P2 [M00, M20, M22] rfl rfl
    (collectScores_cons v211122020 (collectScores_cons v011122220 (collectScores_cons v011122022 collectScores_nil))) rfl

theorem v011022122 : readBoardAux P2 4 (⟨N0, N1, N1, N0, N2, N2, N1, N2, N2⟩ : Grid) P1 = some (ZM, some M00) :=
  readBoardAux_step P2 3 (⟨N0, N1, N1, N0, N2, N2, N1, N2, N2⟩ : Grid) P1 [M00, M10] rfl rfl
    (collectScores_cons t111022122 (collectScores_cons v011122122 collectScores_nil)) rfl

theorem v011022120 : readBoardAux P2 5 (⟨N0, N1, N1, N0, N2, N2, N1, N2, N0⟩ : Grid) P2 = some (ZP, some M00) :=
  readBoardAux_step P2 4 (⟨N0, N1, N1, N0, N2, N2, N1, N2, N0⟩ : Grid) P2 [M00, M10, M22] rfl rfl
    (collectScores_cons v211022120 (collectScores_cons t011222120 (collectScores_cons v011022122 collectScores_nil))) rfl

theorem v011022021 : readBoardAux P2 5 (⟨N0, N1, N1, N0, N2, N2, N0, N2, N1⟩ : Grid) P2 = some (ZP, some M10) :=
  readBoardAux_step P2 4 (⟨N0, N1, N1, N0, N2, N2, N0, N2, N1⟩ : Grid) P2 [M00, M10, M20] rfl rfl
    (collectScores_cons v211022021 (collectScores_cons t011222021 (collectScores_cons v011022221 collectScores_nil))) rfl

theorem v011022020 : readBoardAux P2 6 (⟨N0, N1, N1, N0, N2, N2, N0, N2, N0⟩ : Grid) P1 = some (ZM, some M00) :=
  readBoardAux_step P2 5 (⟨N0, N1, N1, N0, N2, N2, N0, N2, N0⟩ : Grid) P1 [M00, M10, M20, M22] rfl rfl
    (collectScores_cons t111022020 (collectScores_cons v011122020 (collectScores_cons v011022120 (collectScores_cons v011022021 collectScores_nil)))) rfl

theorem v011122002 : readBoardAux P2 5 (⟨N0, N1, N1, N1, N2, N2, N0, N0, N2⟩ : Grid) P2 = some (ZP, some M00) :=
  readBoardAux_step P2 4 (⟨N0, N1, N1, N1, N2, N2, N0, N0, N2⟩ : Grid) P2 [M00, M20, M21] rfl rfl
    (collectScores_cons t211122002 (collectScores_cons v011122202 (collectScores_cons v011122022 collectScores_nil))) rfl

theorem v011022102 : readBoardAux P2 5 (⟨N0, N1, N1, N0, N2, N2, N1, N0, N2⟩ : Grid) P2 = some (ZP, some M00) :=
  readBoardAux_step P2 4 (⟨N0, N1, N1, N0, N2, N2, N1, N0, N2⟩ : Grid) P2 [M00, M10, M21] rfl rfl
    (collectScores_cons t211022102 (collectScores_cons t011222102 (collectScores_cons v011022122 collectScores_nil))) rfl

theorem v011022012 : readBoardAux P2 5 (⟨N0, N1, N1, N0, N2, N2, N0, N1, N2⟩ : Grid) P2 = some (ZP, some M00) :=
  readBoardAux_step P2 4 (⟨N0, N1, N1, N0, N2, N2, N0, N1, N2⟩ : Grid) P2 [M00, M10, M20] rfl rfl
    (collectScores_cons t211022012 (collectScores_cons t011222012 (collectScores_cons v011022212 collectScores_nil))) rfl

theorem v011022002 : readBoardAux P2 6 (⟨N0, N1, N1, N0, N2, N2, N0, N0, N2⟩ : Grid) P1 = some (ZM, some M00) :=
  readBoardAux_step P2 5 (⟨N0, N1, N1, N0, N2, N2, N0, N0, N2⟩ : Grid) P1 [M00, M10, M20, M21] rfl rfl
    (collectScores_cons t111022002 (collectScores_cons v011122002 (collectScores_cons v011022102 (collectScores_cons v011022012 collectScores_nil)))) rfl

theorem v011022000 : readBoardAux P2 7 (⟨N0, N1, N1, N0, N2, N2, N0, N0, N0⟩ : Grid) P2 = some (ZP, some M00) :=
  readBoardAux_step P2 6 (⟨N0, N1, N1, N0, N2, N2, N0, N0, N0⟩ : Grid) P2 [M00, M10, M20, M21, M22] rfl rfl
    (collectScores_cons v211022000 (collectScores_cons t011222000 (collectScores_cons v011022200 (collectScores_cons v011022020 (collectScores_cons v011022002 collectScores_nil))))) rfl

theorem v010122212 : readBoardAux P2 4 (⟨N0, N1, N0, N1, N2, N2, N2, N1, N2⟩ : Grid) P1 = some (ZP, some M00) :=
  readBoardAux_step P2 3 (⟨N0, N1, N0, N1, N2, N2, N2, N1, N2⟩ : Grid) P1 [M00, M02] rfl rfl
    (collectScores_cons v110122212 (collectScores_cons v011122212 collectScores_nil)) rfl

theorem v010122210 : readBoardAux P2 5 (⟨N0, N1, N0, N1, N2, N2, N2, N1, N0⟩ : Grid) P2 = some (ZP, some M00) :=
  readBoardAux_step P2 4 (⟨N0, N1, N0, N1, N2, N2, N2, N1, N0⟩ : Grid) P2 [M00, M02, M22] rfl rfl
    (collectScores_cons v210122210 (collectScores_cons t012122210 (collectScores_cons v010122212 collectScores_nil))) rfl

theorem v010122221 : readBoardAux P2 4 (⟨N0, N1, N0, N1, N2, N2, N2, N2, N1⟩ : Grid) P1 = some (Z0, some M02) :=
  readBoardAux_step P2 3 (⟨N0, N1, N0, N1, N2, N2, N2, N2, N1⟩ : Grid) P1 [M00, M02] rfl rfl
    (collectScores_cons v110122221 (collectScores_cons v011122221 collectScores_nil)) rfl

theorem v010122201 : readBoardAux P2 5 (⟨N0, N1, N0, N1, N2, N2, N2, N0, N1⟩ : Grid) P2 = some (ZP, some M02) :=
  readBoardAux_step P2 4 (⟨N0, N1, N0, N1, N2, N2, N2, N0, N1⟩ : Grid) P2 [M00, M02, M21] rfl rfl
    (collectScores_cons v210122201 (collectScores_cons t012122201 (collectScores_cons v010122221 collectScores_nil))) rfl

theorem v010122200 : readBoardAux P2 6 (⟨N0, N1, N0, N1, N2, N2, N2, N0, N0⟩ : Grid) P1 = some (Z0, some M02) :=
  readBoardAux_step P2 5 (⟨N0, N1, N0, N1, N2, N2, N2, N0, N0⟩ : Grid) P1 [M00, M02, M21, M22] rfl rfl
    (collectScores_cons v110122200 (collectScores_cons v011122200 (collectScores_cons v010122210 (collectScores_cons v010122201 collectScores_nil)))) rfl

theorem v010122122 : readBoardAux P2 4 (⟨N0, N1, N0, N1, N2, N2, N1, N2, N2⟩ : Grid) P1 = some (ZM, some M00) :=
  readBoardAux_step P2 3 (⟨N0, N1, N0, N1, N2, N2, N1, N2, N2⟩ : Grid) P1 [M00, M02] rfl rfl
    (collectScores_cons t110122122 (collectScores_cons v011122122 collectScores_nil)) rfl

theorem v010122120 : readBoardAux P2 5 (⟨N0, N1, N0, N1, N2, N2, N1, N2, N0⟩ : Grid) P2 = some (Z0, some M00) :=
  readBoardAux_step P2 4 (⟨N0, N1, N0, N1, N2, N2, N1, N2, N0⟩ : Grid) P2 [M00, M02, M22] rfl rfl
    (collectScores_cons v210122120 (collectScores_cons v012122120 (collectScores_cons v010122122 collectScores_nil))) rfl

theorem v010122021 : readBoardAux P2 5 (⟨N0, N1, N0, N1, N2, N2, N0, N2, N1⟩ : Grid) P2 = some (Z0, some M00) :=
  readBoardAux_step P2 4 (⟨N0, N1, N0, N1, N2, N2, N0, N2, N1⟩ : Grid) P2 [M00, M02, M20] rfl rfl
    (collectScores_cons v210122021 (collectScores_cons v012122021 (collectScores_cons v010122221 collectScores_nil))) rfl

theorem v010122020 : readBoardAux P2 6 (⟨N0, N1, N0, N1, N2, N2, N0, N2, N0⟩ : Grid) P1 = some (ZM, some M00) :=
  readBoardAux_step P2 5 (⟨N0, N1, N0, N1, N2, N2, N0, N2, N0⟩ : Grid) P1 [M00, M02, M20, M22] rfl rfl
    (collectScores_cons v110122020 (collectScores_cons v011122020 (collectScores_cons v010122120 (collectScores_cons v010122021 collectScores_nil)))) rfl

theorem v010122102 : readBoardAux P2 5 (⟨N0, N1, N0, N1, N2, N2, N1, N0, N2⟩ : Grid) P2 = some (ZP, some M00) :=
  readBoardAux_step P2 4 (⟨N0, N1, N0, N1, N2, N2, N1, N0, N2⟩ : Grid) P2 [M00, M02, M21] rfl rfl
    (collectScores_cons t210122102 (collectScores_cons t012122102 (collectScores_cons v010122122 collectScores_nil))) rfl

theorem v010122012 : readBoardAux P2 5 (⟨N0, N1, N0, N1, N2, N2, N0, N1, N2⟩ : Grid) P2 = some (ZP, some M00) :=
  readBoardAux_step P2 4 (⟨N0, N1, N0, N1, N2, N2, N0, N1, N2⟩ : Grid) P2 [M00, M02, M20] rfl rfl
    (collectScores_cons t210122012 (collectScores_cons t012122012 (collectScores_cons v010122212 collectScores_nil))) rfl

theorem v010122002 : readBoardAux P2 6 (⟨N0, N1, N0, N1, N2, N2, N0, N0, N2⟩ : Grid) P1 = some (ZP, some M00) :=
  readBoardAux_step P2 5 (⟨N0, N1, N0, N1, N2, N2, N0, N0, N2⟩ : Grid) P1 [M00, M02, M20, M21] rfl rfl
    (collectScores_cons v110122002 (collectScores_cons v011122002 (collectScores_cons v010122102 (collectScores_cons v010122012 collectScores_nil)))) rfl

theorem v010122000 : readBoardAux P2 7 (⟨N0, N1, N0, N1, N2, N2, N0, N0, N0⟩ : Grid) P2 = some (ZP, some M02) :=
  readBoardAux_step P2 6 (⟨N0, N1, N0, N1, N2, N2, N0, N0, N0⟩ : Grid) P2 [M00, M02, M20, M21, M22] rfl rfl
    (collectScores_cons v210122000 (collectScores_cons v012122000 (collectScores_cons v010122200 (collectScores_cons v010122020 (collectScores_cons v010122002 collectScores_nil))))) rfl

theorem v010022121 : readBoardAux P2 5 (⟨N0, N1, N0, N0, N2, N2, N1, N2, N1⟩ : Grid) P2 = some (ZP, some M10) :=
  readBoardAux_step P2 4 (⟨N0, N1, N0, N0, N2, N2, N1, N2, N1⟩ : Grid) P2 [M00, M02, M10] rfl rfl
    (collectScores_cons v210022121 (collectScores_cons v012022121 (collectScores_cons t010222121 collectScores_nil))) rfl

theorem v010022120 : readBoardAux P2 6 (⟨N0, N1, N0, N0, N2, N2, N1, N2, N0⟩ : Grid) P1 = some (Z0, some M10) :=
  readBoardAux_step P2 5 (⟨N0, N1, N0, N0, N2, N2, N1, N2, N0⟩ : Grid) P1 [M00, M02, M10, M22] rfl rfl
    (collectScores_cons v110022120 (collectScores_cons v011022120 (collectScores_cons v010122120 (collectScores_cons v010022121 collectScores_nil)))) rfl

theorem v010022112 : readBoardAux P2 5 (⟨N0, N1, N0, N0, N2, N2, N1, N1, N2⟩ : Grid) P2 = some (ZP, some M00) :=
  readBoardAux_step P2 4 (⟨N0, N1, N0, N0, N2, N2, N1, N1, N2⟩ : Grid) P2 [M00, M02, M10] rfl rfl
    (collectScores_cons t210022112 (collectScores_cons t012022112 (collectScores_cons t010222112 collectScores_nil))) rfl

theorem v010022102 : readBoardAux P2 6 (⟨N0, N1, N0, N0, N2, N2, N1, N0, N2⟩ : Grid) P1 = some (ZP, some M00) :=
  readBoardAux_step P2 5 (⟨N0, N1, N0, N0, N2, N2, N1, N0, N2⟩ : Grid) P1 [M00, M02, M10, M21] rfl rfl
    (collectScores_cons v110022102 (collectScores_cons v011022102 (collectScores_cons v010122102 (collectScores_cons v010022112 collectScores_nil)))) rfl

theorem v010022100 : readBoardAux P2 7 (⟨N0, N1, N0, N0, N2, N2, N1, N0, N0⟩ : Grid) P2 = some (ZP, some M00) :=
  readBoardAux_step P2 6 (⟨N0, N1, N0, N0, N2, N2, N1, N0, N0⟩ : Grid) P2 [M00, M02, M10, M21, M22] rfl rfl
    (collectScores_cons v210022100 (collectScores_cons v012022100 (collectScores_cons t010222100 (collectScores_cons v010022120 (collectScores_cons v010022102 collectScores_nil))))) rfl

theorem v010022211 : readBoardAux P2 5 (⟨N0, N1, N0, N0, N2, N2, N2, N1, N1⟩ : Grid) P2 = some (ZP, some M00) :=
  readBoardAux_step P2 4 (⟨N0, N1, N0, N0, N2, N2, N2, N1, N1⟩ : Grid) P2 [M00, M02, M10] rfl rfl
    (collectScores_cons v210022211 (collectScores_cons t012022211 (collectScores_cons t010222211 collectScores_nil))) rfl

theorem v010022210 : readBoardAux P2 6 (⟨N0, N1, N0, N0, N2, N2, N2, N1, N0⟩ : Grid) P1 = some (ZP, some M00) :=
  readBoardAux_step P2 5 (⟨N0, N1, N0, N0, N2, N2, N2, N1, N0⟩ : Grid) P1 [M00, M02, M10, M22] rfl rfl
    (collectScores_cons v110022210 (collectScores_cons v011022210 (collectScores_cons v010122210 (collectScores_cons v010022211 collectScores_nil)))) rfl

theorem v010022012 : readBoardAux P2 6 (⟨N0, N1, N0, N0, N2, N2, N0, N1, N2⟩ : Grid) P1 = some (ZP, some M00) :=
  readBoardAux_step P2 5 (⟨N0, N1, N0, N0, N2, N2, N0, N1, N2⟩ : Grid) P1 [M00, M02, M10, M20] rfl rfl
    (collectScores_cons v110022012 (collectScores_cons v011022012 (collectScores_cons v010122012 (collectScores_cons v010022112 collectScores_nil)))) rfl

theorem v010022010 : readBoardAux P2 7 (⟨N0, N1, N0, N0, N2, N2, N0, N1, N0⟩ : Grid) P2 = some (ZP, some M00) :=
  readBoardAux_step P2 6 (⟨N0, N1, N0, N0, N2, N2, N0, N1, N0⟩ : Grid) P2 [M00, M02, M10, M20, M22] rfl rfl
    (collectScores_cons v210022010 (collectScores_cons v012022010 (collectScores_cons t010222010 (collectScores_cons v010022210 (collectScores_cons v010022012 collectScores_nil))))) rfl

theorem v010022201 : readBoardAux P2 6 (⟨N0, N1, N0, N0, N2, N2, N2, N0, N1⟩ : Grid) P1 = some (ZP, some M00) :=
  readBoardAux_step P2 5 (⟨N0, N1, N0, N0, N2, N2, N2, N0, N1⟩ : Grid) P1 [M00, M02, M10, M21] rfl rfl
    (collectScores_cons v110022201 (collectScores_cons v011022201 (collectScores_cons v010122201 (collectScores_cons v010022211 collectScores_nil)))) rfl

theorem v010022021 : readBoardAux P2 6 (⟨N0, N1, N0, N0, N2, N2, N0, N2, N1⟩ : Grid) P1 = some (Z0, some M10) :=
  readBoardAux_step P2 5 (⟨N0, N1, N0, N0, N2, N2, N0, N2, N1⟩ : Grid) P1 [M00, M02, M10, M20] rfl rfl
    (collectScores_cons v110022021 (collectScores_cons v011022021 (collectScores_cons v010122021 (collectScores_cons v010022121 collectScores_nil)))) rfl

theorem v010022001 : readBoardAux P2 7 (⟨N0, N1, N0, N0, N2, N2, N0, N0, N1⟩ : Grid) P2 = some (ZP, some M02) :=
  readBoardAux_step P2 6 (⟨N0, N1, N0, N0, N2, N2, N0, N0, N1⟩ : Grid) P2 [M00, M02, M10, M20, M21] rfl rfl
    (collectScores_cons v210022001 (collectScores_cons v012022001 (collectScores_cons t010222001 (collectScores_cons v010022201 (collectScores_cons v010022021 collectScores_nil))))) rfl

theorem v010022000 : readBoardAux P2 8 (⟨N0, N1, N0, N0, N2, N2, N0, N0, N0⟩ : Grid) P1 = some (ZP, some M00) :=
  readBoardAux_step P2 7 (⟨N0, N1, N0, N0, N2, N2, N0, N0, N0⟩ : Grid) P1 [M00, M02, M10, M20, M21, M22] rfl rfl
    (collectScores_cons v110022000 (collectScores_cons v011022000 (collectScores_cons v010122000 (collectScores_cons v010022100 (collectScores_cons v010022010 (collectScores_cons v010022001 collectScores_nil)))))) rfl

theorem t011120222 : readBoardAux P2 4 (⟨N0, N1, N1, N1, N2, N0, N2, N2, N2⟩ : Grid) P1 = some (ZP, none) :=
  rfl

theorem v011120220 : readBoardAux P2 5 (⟨N0, N1, N1, N1, N2, N0, N2, N2, N0⟩ : Grid) P2 = some (ZP, some M22) :=
  readBoardAux_step P2 4 (⟨N0, N1, N1, N1, N2, N0, N2, N2, N0⟩ : Grid) P2 [M00, M12, M22] rfl rfl
    (collectScores_cons v211120220 (collectScores_cons v011122220 (collectScores_cons t011120222 collectScores_nil))) rfl

theorem t011021222 : readBoardAux P2 4 (⟨N0, N1, N1, N0, N2, N1, N2, N2, N2⟩ : Grid) P1 = some (ZP, none) :=
  rfl

theorem v011021220 : readBoardAux P2 5 (⟨N0, N1, N1, N0, N2, N1, N2, N2, N0⟩ : Grid) P2 = some (ZP, some M22) :=
  readBoardAux_step P2 4 (⟨N0, N1, N1, N0, N2, N1, N2, N2, N0⟩ : Grid) P2 [M00, M10, M22] rfl rfl
    (collectScores_cons v211021220 (collectScores_cons v011221220 (collectScores_cons t011021222 collectScores_nil))) rfl

theorem v011020221 : readBoardAux P2 5 (⟨N0, N1, N1, N0, N2, N0, N2, N2, N1⟩ : Grid) P2 = some (ZM, some M00) :=
  readBoardAux_step P2 4 (⟨N0, N1, N1, N0, N2, N0, N2, N2, N1⟩ : Grid) P2 [M00, M10, M12] rfl rfl
    (collectScores_cons v211020221 (collectScores_cons v011220221 (collectScores_cons v011022221 collectScores_nil))) rfl

theorem v011020220 : readBoardAux P2 6 (⟨N0, N1, N1, N0, N2, N0, N2, N2, N0⟩ : Grid) P1 = some (ZM, some M00) :=
  readBoardAux_step P2 5 (⟨N0, N1, N1, N0, N2, N0, N2, N2, N0⟩ : Grid) P1 [M00, M10, M12, M22] rfl rfl
    (collectScores_cons t111020220 (collectScores_cons v011120220 (collectScores_cons v011021220 (collectScores_cons v011020221 collectScores_nil)))) rfl

theorem v011120202 : readBoardAux P2 5 (⟨N0, N1, N1, N1, N2, N0, N2, N0, N2⟩ : Grid) P2 = some (ZP, some M00) :=
  readBoardAux_step P2 4 (⟨N0, N1, N1, N1, N2, N0, N2, N0, N2⟩ : Grid) P2 [M00, M12, M21] rfl rfl
    (collectScores_cons t211120202 (collectScores_cons v011122202 (collectScores_cons t011120222 collectScores_nil))) rfl

theorem v011021202 : readBoardAux P2 5 (⟨N0, N1, N1, N0, N2, N1, N2, N0, N2⟩ : Grid) P2 = some (ZP, some M00) :=
  readBoardAux_step P2 4 (⟨N0, N1, N1, N0, N2, N1, N2, N0, N2⟩ : Grid) P2 [M00, M10, M21] rfl rfl
    (collectScores_cons t211021202 (collectScores_cons v011221202 (collectScores_cons t011021222 collectScores_nil))) rfl

theorem v011020212 : readBoardAux P2 5 (⟨N0, N1, N1, N0, N2, N0, N2, N1, N2⟩ : Grid) P2 = some (ZP, some M00) :=
  readBoardAux_step P2 4 (⟨N0, N1, N1, N0, N2, N0, N2, N1, N2⟩ : Grid) P2 [M00, M10, M12] rfl rfl
    (collectScores_cons t211020212 (collectScores_cons v011220212 (collectScores_cons v011022212 collectScores_nil))) rfl

theorem v011020202 : readBoardAux P2 6 (⟨N0, N1, N1, N0, N2, N0, N2, N0, N2⟩ : Grid) P1 = some (ZM, some M00) :=
  readBoardAux_step P2 5 (⟨N0, N1, N1, N0, N2, N0, N2, N0, N2⟩ : Grid) P1 [M00, M10, M12, M21] rfl rfl
    (collectScores_cons t111020202 (collectScores_cons v011120202 (collectScores_cons v011021202 (collectScores_cons v011020212 collectScores_nil)))) rfl

theorem v011020200 : readBoardAux P2 7 (⟨N0, N1, N1, N0, N2, N0, N2, N0, N0⟩ : Grid) P2 = some (ZP, some M00) :=
  readBoardAux_step P2 6 (⟨N0, N1, N1, N0, N2, N0, N2, N0, N0⟩ : Grid) P2 [M00, M10, M12, M21, M22] rfl rfl
    (collectScores_cons v211020200 (collectScores_cons v011220200 (collectScores_cons v011022200 (collectScores_cons v011020220 (collectScores_cons v011020202 collectScores_nil))))) rfl

theorem t010121222 : readBoardAux P2 4 (⟨N0, N1, N0, N1, N2, N1, N2, N2, N2⟩ : Grid) P1 = some (ZP, none) :=
  rfl

theorem v010121220 : readBoardAux P2 5 (⟨N0, N1, N0, N1, N2, N1, N2, N2, N0⟩ : Grid) P2 = some (ZP, some M00) :=
  readBoardAux_step P2 4 (⟨N0, N1, N0, N1, N2, N1, N2, N2, N0⟩ : Grid) P2 [M00, M02, M22] rfl rfl
    (collectScores_cons v210121220 (collectScores_cons t012121220 (collectScores_cons t010121222 collectScores_nil))) rfl

theorem v010120221 : readBoardAux P2 5 (⟨N0, N1, N0, N1, N2, N0, N2, N2, N1⟩ : Grid) P2 = some (ZP, some M02) :=
  readBoardAux_step P2 4 (⟨N0, N1, N0, N1, N2, N0, N2, N2, N1⟩ : Grid) P2 [M00, M02, M12] rfl rfl
    (collectScores_cons v210120221 (collectScores_cons t012120221 (collectScores_cons v010122221 collectScores_nil))) rfl

theorem v010120220 : readBoardAux P2 6 (⟨N0, N1, N0, N1, N2, N0, N2, N2, N0⟩ : Grid) P1 = some (ZP, some M00) :=
  readBoardAux_step P2 5 (⟨N0, N1, N0, N1, N2, N0, N2, N2, N0⟩ : Grid) P1 [M00, M02, M12, M22] rfl rfl
    (collectScores_cons v110120220 (collectScores_cons v011120220 (collectScores_cons v010121220 (collectScores_cons v010120221 collectScores_nil)))) rfl

theorem v010121202 : readBoardAux P2 5 (⟨N0, N1, N0, N1, N2, N1, N2, N0, N2⟩ : Grid) P2 = some (ZP, some M00) :=
  readBoardAux_step P2 4 (⟨N0, N1, N0, N1, N2, N1, N2, N0, N2⟩ : Grid) P2 [M00, M02, M21] rfl rfl
    (collectScores_cons t210121202 (collectScores_cons t012121202 (collectScores_cons t010121222 collectScores_nil))) rfl

theorem v010120212 : readBoardAux P2 5 (⟨N0, N1, N0, N1, N2, N0, N2, N1, N2⟩ : Grid) P2 = some (ZP, some M00) :=
  readBoardAux_step P2 4 (⟨N0, N1, N0, N1, N2, N0, N2, N1, N2⟩ : Grid) P2 [M00, M02, M12] rfl rfl
    (collectScores_cons t210120212 (collectScores_cons t012120212 (collectScores_cons v010122212 collectScores_nil))) rfl

theorem v010120202 : readBoardAux P2 6 (⟨N0, N1, N0, N1, N2, N0, N2, N0, N2⟩ : Grid) P1 = some (ZP, some M00) :=
  readBoardAux_step P2 5 (⟨N0, N1, N0, N1, N2, N0, N2, N0, N2⟩ : Grid) P1 [M00, M02, M12, M21] rfl rfl
    (collectScores_cons v110120202 (collectScores_cons v011120202 (collectScores_cons v010121202 (collectScores_cons v010120212 collectScores_nil)))) rfl

theorem v010120200 : readBoardAux P2 7 (⟨N0, N1, N0, N1, N2, N0, N2, N0, N0⟩ : Grid) P2 = some (ZP, some M00) :=
  readBoardAux_step P2 6 (⟨N0, N1, N0, N1, N2, N0, N2, N0, N0⟩ : Grid) P2 [M00, M02, M12, M21, M22] rfl rfl
    (collectScores_cons v210120200 (collectScores_cons t012120200 (collectScores_cons v010122200 (collectScores_cons v010120220 (collectScores_cons v010120202 collectScores_nil))))) rfl

theorem v010021221 : readBoardAux P2 5 (⟨N0, N1, N0, N0, N2, N1, N2, N2, N1⟩ : Grid) P2 = some (ZP, some M02) :=
  readBoardAux_step P2 4 (⟨N0, N1, N0, N0, N2, N1, N2, N2, N1⟩ : Grid) P2 [M00, M02, M10] rfl rfl
    (collectScores_cons v210021221 (collectScores_cons t012021221 (collectScores_cons v010221221 collectScores_nil))) rfl

theorem v010021220 : readBoardAux P2 6 (⟨N0, N1, N0, N0, N2, N1, N2, N2, N0⟩ : Grid) P1 = some (ZP, some M00) :=
  readBoardAux_step P2 5 (⟨N0, N1, N0, N0, N2, N1, N2, N2, N0⟩ : Grid) P1 [M00, M02, M10, M22] rfl rfl
    (collectScores_cons v110021220 (collectScores_cons v011021220 (collectScores_cons v010121220 (collectScores_cons v010021221 collectScores_nil)))) rfl

theorem v010021212 : readBoardAux P2 5 (⟨N0, N1, N0, N0, N2, N1, N2, N1, N2⟩ : Grid) P2 = some (ZP, some M00) :=
  readBoardAux_step P2 4 (⟨N0, N1, N0, N0, N2, N1, N2, N1, N2⟩ : Grid) P2 [M00, M02, M10] rfl rfl
    (collectScores_cons t210021212 (collectScores_cons t012021212 (collectScores_cons v010221212 collectScores_nil))) rfl

theorem v010021202 : readBoardAux P2 6 (⟨N0, N1, N0, N0, N2, N1, N2, N0, N2⟩ : Grid) P1 = some (ZP, some M00) :=
  readBoardAux_step P2 5 (⟨N0, N1, N0, N0, N2, N1, N2, N0, N2⟩ : Grid) P1 [M00, M02, M10, M21] rfl rfl
    (collectScores_cons v110021202 (collectScores_cons v011021202 (collectScores_cons v010121202 (collectScores_cons v010021212 collectScores_nil)))) rfl

theorem v010021200 : readBoardAux P2 7 (⟨N0, N1, N0, N0, N2, N1, N2, N0, N0⟩ : Grid) P2 = some (ZP, some M00) :=
  readBoardAux_step P2 6 (⟨N0, N1, N0, N0, N2, N1, N2, N0, N0⟩ : Grid) P2 [M00, M02, M10, M21, M22] rfl rfl
    (collectScores_cons v210021200 (collectScores_cons t012021200 (collectScores_cons v010221200 (collectScores_cons v010021220 (collectScores_cons v010021202 collectScores_nil))))) rfl

theorem v010020212 : readBoardAux P2 6 (⟨N0, N1, N0, N0, N2, N0, N2, N1, N2⟩ : Grid) P1 = some (ZP, some M00) :=
  readBoardAux_step P2 5 (⟨N0, N1, N0, N0, N2, N0, N2, N1, N2⟩ : Grid) P1 [M00, M02, M10, M12] rfl rfl
    (collectScores_cons v110020212 (collectScores_cons v011020212 (collectScores_cons v010120212 (collectScores_cons v010021212 collectScores_nil)))) rfl

theorem v010020210 : readBoardAux P2 7 (⟨N0, N1, N0, N0, N2, N0, N2, N1, N0⟩ : Grid) P2 = some (ZP, some M00) :=
  readBoardAux_step P2 6 (⟨N0, N1, N0, N0, N2, N0, N2, N1, N0⟩ : Grid) P2 [M00, M02, M10, M12, M22] rfl rfl
    (collectScores_cons v210020210 (collectScores_cons t012020210 (collectScores_cons v010220210 (collectScores_cons v010022210 (collectScores_cons v010020212 collectScores_nil))))) rfl

theorem v010020221 : readBoardAux P2 6 (⟨N0, N1, N0, N0, N2, N0, N2, N2, N1⟩ : Grid) P1 = some (ZM, some M02) :=
  readBoardAux_step P2 5 (⟨N0, N1, N0, N0, N2, N0, N2, N2, N1⟩ : Grid) P1 [M00, M02, M10, M12] rfl rfl
    (collectScores_cons v110020221 (collectScores_cons v011020221 (collectScores_cons v010120221 (collectScores_cons v010021221 collectScores_nil)))) rfl

theorem v010020201 : readBoardAux P2 7 (⟨N0, N1, N0, N0, N2, N0, N2, N0, N1⟩ : Grid) P2 = some (ZP, some M00) :=
  readBoardAux_step P2 6 (⟨N0, N1, N0, N0, N2, N0, N2, N0, N1⟩ : Grid) P2 [M00, M02, M10, M12, M21] rfl rfl
    (collectScores_cons v210020201 (collectScores_cons t012020201 (collectScores_cons v010220201 (collectScores_cons v010022201 (collectScores_cons v010020221 collectScores_nil))))) rfl

theorem v010020200 : readBoardAux P2 8 (⟨N0, N1, N0, N0, N2, N0, N2, N0, N0⟩ : Grid) P1 = some (ZP, some M00) :=
  readBoardAux_step P2 7 (⟨N0, N1, N0, N0, N2, N0, N2, N0, N0⟩ : Grid) P1 [M00, M02, M10, M12, M21, M22] rfl rfl
    (collectScores_cons v110020200 (collectScores_cons v011020200 (collectScores_cons v010120200 (collectScores_cons v010021200 (collectScores_cons v010020210 (collectScores_cons v010020201 collectScores_nil)))))) rfl

theorem v011120022 : readBoardAux P2 5 (⟨N0, N1, N1, N1, N2, N0, N0, N2, N2⟩ : Grid) P2 = some (ZP, some M00) :=
  readBoardAux_step P2 4 (⟨N0, N1, N1, N1, N2, N0, N0, N2, N2⟩ : Grid) P2 [M00, M12, M20] rfl rfl
    (collectScores_cons t211120022 (collectScores_cons v011122022 (collectScores_cons t011120222 collectScores_nil))) rfl

theorem v011021022 : readBoardAux P2 5 (⟨N0, N1, N1, N0, N2, N1, N0, N2, N2⟩ : Grid) P2 = some (ZP, some M00) :=
  readBoardAux_step P2 4 (⟨N0, N1, N1, N0, N2, N1, N0, N2, N2⟩ : Grid) P2 [M00, M10, M20] rfl rfl
    (collectScores_cons t211021022 (collectScores_cons v011221022 (collectScores_cons t011021222 collectScores_nil))) rfl

theorem v011020122 : readBoardAux P2 5 (⟨N0, N1, N1, N0, N2, N0, N1, N2, N2⟩ : Grid) P2 = some (ZP, some M00) :=
  readBoardAux_step P2 4 (⟨N0, N1, N1, N0, N2, N0, N1, N2, N2⟩ : Grid) P2 [M00, M10, M12] rfl rfl
    (collectScores_cons t211020122 (collectScores_cons v011220122 (collectScores_cons v011022122 collectScores_nil))) rfl

theorem v011020022 : readBoardAux P2 6 (⟨N0, N1, N1, N0, N2, N0, N0, N2, N2⟩ : Grid) P1 = some (ZM, some M00) :=
  readBoardAux_step P2 5 (⟨N0, N1, N1, N0, N2, N0, N0, N2, N2⟩ : Grid) P1 [M00, M10, M12, M20] rfl rfl
    (collectScores_cons t111020022 (collectScores_cons v011120022 (collectScores_cons v011021022 (collectScores_cons v011020122 collectScores_nil)))) rfl

theorem v011020020 : readBoardAux P2 7 (⟨N0, N1, N1, N0, N2, N0, N0, N2, N0⟩ : Grid) P2 = some (Z0, some M00) :=
  readBoardAux_step P2 6 (⟨N0, N1, N1, N0, N2, N0, N0, N2, N0⟩ : Grid) P2 [M00, M10, M12, M20, M22] rfl rfl
    (collectScores_cons v211020020 (collectScores_cons v011220020 (collectScores_cons v011022020 (collectScores_cons v011020220 (collectScores_cons v011020022 collectScores_nil))))) rfl

theorem v010121022 : readBoardAux P2 5 (⟨N0, N1, N0, N1, N2, N1, N0, N2, N2⟩ : Grid) P2 = some (ZP, some M00) :=
  readBoardAux_step P2 4 (⟨N0, N1, N0, N1, N2, N1, N0, N2, N2⟩ : Grid) P2 [M00, M02, M20] rfl rfl
    (collectScores_cons t210121022 (collectScores_cons v012121022 (collectScores_cons t010121222 collectScores_nil))) rfl

theorem v010120122 : readBoardAux P2 5 (⟨N0, N1, N0, N1, N2, N0, N1, N2, N2⟩ : Grid) P2 = some (ZP, some M00) :=
  readBoardAux_step P2 4 (⟨N0, N1, N0, N1, N2, N0, N1, N2, N2⟩ : Grid) P2 [M00, M02, M12] rfl rfl
    (collectScores_cons t210120122 (collectScores_cons v012120122 (collectScores_cons v010122122 collectScores_nil))) rfl

theorem v010120022 : readBoardAux P2 6 (⟨N0, N1, N0, N1, N2, N0, N0, N2, N2⟩ : Grid) P1 = some (ZP, some M00) :=
  readBoardAux_step P2 5 (⟨N0, N1, N0, N1, N2, N0, N0, N2, N2⟩ : Grid) P1 [M00, M02, M12, M20] rfl rfl
    (collectScores_cons v110120022 (collectScores_cons v011120022 (collectScores_cons v010121022 (collectScores_cons v010120122 collectScores_nil)))) rfl

theorem v010120020 : readBoardAux P2 7 (⟨N0, N1, N0, N1, N2, N0, N0, N2, N0⟩ : Grid) P2 = some (ZP, some M20) :=
  readBoardAux_step P2 6 (⟨N0, N1, N0, N1, N2, N0, N0, N2, N0⟩ : Grid) P2 [M00, M02, M12, M20, M22] rfl rfl
    (collectScores_cons v210120020 (collectScores_cons v012120020 (collectScores_cons v010122020 (collectScores_cons v010120220 (collectScores_cons v010120022 collectScores_nil))))) rfl

theorem v010021122 : readBoardAux P2 5 (⟨N0, N1, N0, N0, N2, N1, N1, N2, N2⟩ : Grid) P2 = some (ZP, some M00) :=
  readBoardAux_step P2 4 (⟨N0, N1, N0, N0, N2, N1, N1, N2, N2⟩ : Grid) P2 [M00, M02, M10] rfl rfl
    (collectScores_cons t210021122 (collectScores_cons v012021122 (collectScores_cons v010221122 collectScores_nil))) rfl

theorem v010021022 : readBoardAux P2 6 (⟨N0, N1, N0, N0, N2, N1, N0, N2, N2⟩ : Grid) P1 = some (ZP, some M00) :=
  readBoardAux_step P2 5 (⟨N0, N1, N0, N0, N2, N1, N0, N2, N2⟩ : Grid) P1 [M00, M02, M10, M20] rfl rfl
    (collectScores_cons v110021022 (collectScores_cons v011021022 (collectScores_cons v010121022 (collectScores_cons v010021122 collectScores_nil)))) rfl

theorem v010021020 : readBoardAux P2 7 (⟨N0, N1, N0, N0, N2, N1, N0, N2, N0⟩ : Grid) P2 = some (ZP, some M20) :=
  readBoardAux_step P2 6 (⟨N0, N1, N0, N0, N2, N1, N0, N2, N0⟩ : Grid) P2 [M00, M02, M10, M20, M22] rfl rfl
    (collectScores_cons v210021020 (collectScores_cons v012021020 (collectScores_cons v010221020 (collectScores_cons v010021220 (collectScores_cons v010021022 collectScores_nil))))) rfl

theorem v010020122 : readBoardAux P2 6 (⟨N0, N1, N0, N0, N2, N0, N1, N2, N2⟩ : Grid) P1 = some (ZM, some M00) :=
  readBoardAux_step P2 5 (⟨N0, N1, N0, N0, N2, N0, N1, N2, N2⟩ : Grid) P1 [M00, M02, M10, M12] rfl rfl
    (collectScores_cons v110020122 (collectScores_cons v011020122 (collectScores_cons v010120122 (collectScores_cons v010021122 collectScores_nil)))) rfl

theorem v010020120 : readBoardAux P2 7 (⟨N0, N1, N0, N0, N2, N0, N1, N2, N0⟩ : Grid) P2 = some (Z0, some M00) :=
  readBoardAux_step P2 6 (⟨N0, N1, N0, N0, N2, N0, N1, N2, N0⟩ : Grid) P2 [M00, M02, M10, M12, M22] rfl rfl
    (collectScores_cons v210020120 (collectScores_cons v012020120 (collectScores_cons v010220120 (collectScores_cons v010022120 (collectScores_cons v010020122 collectScores_nil))))) rfl

theorem v010020021 : readBoardAux P2 7 (⟨N0, N1, N0, N0, N2, N0, N0, N2, N1⟩ : Grid) P2 = some (Z0, some M00) :=
  readBoardAux_step P2 6 (⟨N0, N1, N0, N0, N2, N0, N0, N2, N1⟩ : Grid) P2 [M00, M02, M10, M12, M20] rfl rfl
    (collectScores_cons v210020021 (collectScores_cons v012020021 (collectScores_cons v010220021 (collectScores_cons v010022021 (collectScores_cons v010020221 collectScores_nil))))) rfl

theorem v010020020 : readBoardAux P2 8 (⟨N0, N1, N0, N0, N2, N0, N0, N2, N0⟩ : Grid) P1 = some (Z0, some M00) :=
  readBoardAux_step P2 7 (⟨N0, N1, N0, N0, N2, N0, N0, N2, N0⟩ : Grid) P1 [M00, M02, M10, M12, M20, M22] rfl rfl
    (collectScores_cons v110020020 (collectScores_cons v011020020 (collectScores_cons v010120020 (collectScores_cons v010021020 (collectScores_cons v010020120 (collectScores_cons v010020021 collectScores_nil)))))) rfl

theorem v011020002 : readBoardAux P2 7 (⟨N0, N1, N1, N0, N2, N0, N0, N0, N2⟩ : Grid) P2 = some (ZP, some M00) :=
  readBoardAux_step P2 6 (⟨N0, N1, N1, N0, N2, N0, N0, N0, N2⟩ : Grid) P2 [M00, M10, M12, M20, M21] rfl rfl
    (collectScores_cons t211020002 (collectScores_cons v011220002 (collectScores_cons v011022002 (collectScores_cons v011020202 (collectScores_cons v011020022 collectScores_nil))))) rfl

theorem v010120002 : readBoardAux P2 7 (⟨N0, N1, N0, N1, N2, N0, N0, N0, N2⟩ : Grid) P2 = some (ZP, some M00) :=
  readBoardAux_step P2 6 (⟨N0, N1, N0, N1, N2, N0, N0, N0, N2⟩ : Grid) P2 [M00, M02, M12, M20, M21] rfl rfl
    (collectScores_cons t210120002 (collectScores_cons v012120002 (collectScores_cons v010122002 (collectScores_cons v010120202 (collectScores_cons v010120022 collectScores_nil))))) rfl

theorem v010021002 : readBoardAux P2 7 (⟨N0, N1, N0, N0, N2, N1, N0, N0, N2⟩ : Grid) P2 = some (ZP, some M00) :=
  readBoardAux_step P2 6 (⟨N0, N1, N0, N0, N2, N1, N0, N0, N2⟩ : Grid) P2 [M00, M02, M10, M20, M21] rfl rfl
    (collectScores_cons t210021002 (collectScores_cons v012021002 (collectScores_cons v010221002 (collectScores_cons v010021202 (collectScores_cons v010021022 collectScores_nil))))) rfl

theorem v010020102 : readBoardAux P2 7 (⟨N0, N1, N0, N0, N2, N0, N1, N0, N2⟩ : Grid) P2 = some (ZP, some M00) :=
  readBoardAux_step P2 6 (⟨N0, N1, N0, N0, N2, N0, N1, N0, N2⟩ : Grid) P2 [M00, M02, M10, M12, M21] rfl rfl
    (collectScores_cons t210020102 (collectScores_cons v012020102 (collectScores_cons v010220102 (collectScores_cons v010022102 (collectScores_cons v010020122 collectScores_nil))))) rfl

theorem v010020012 : readBoardAux P2 7 (⟨N0, N1, N0, N0, N2, N0, N0, N1, N2⟩ : Grid) P2 = some (ZP, some M00) :=
  readBoardAux_step P2 6 (⟨N0, N1, N0, N0, N2, N0, N0, N1, N2⟩ : Grid) P2 [M00, M02, M10, M12, M20] rfl rfl
    (collectScores_cons t210020012 (collectScores_cons v012020012 (collectScores_cons v010220012 (collectScores_cons v010022012 (collectScores_cons v010020212 collectScores_nil))))) rfl

theorem v010020002 : readBoardAux P2 8 (⟨N0, N1, N0, N0, N2, N0, N0, N0, N2⟩ : Grid) P1 = some (ZP, some M00) :=
  readBoardAux_step P2 7 (⟨N0, N1, N0, N0, N2, N0, N0, N0, N2⟩ : Grid) P1 [M00, M02, M10, M12, M20, M21] rfl rfl
    (collectScores_cons v110020002 (collectScores_cons v011020002 (collectScores_cons v010120002 (collectScores_cons v010021002 (collectScores_cons v010020102 (collectScores_cons v010020012 collectScores_nil)))))) rfl

theorem v010020000 : readBoardAux P2 9 (⟨N0, N1, N0, N0, N2, N0, N0, N0, N0⟩ : Grid) P2 = some (ZP, some M00) :=
  readBoardAux_step P2 8 (⟨N0, N1, N0, N0, N2, N0, N0, N0, N0⟩ : Grid) P2 [M00, M02, M10, M12, M20, M21, M22] rfl rfl
    (collectScores_cons v210020000 (collectScores_cons v012020000 (collectScores_cons v010220000 (collectScores_cons v010022000 (collectScores_cons v010020200 (collectScores_cons v010020020 (collectScores_cons v010020002 collectScores_nil))))))) rfl

theorem v001122212 : readBoardAux P2 4 (⟨N0, N0, N1, N1, N2, N2, N2, N1, N2⟩ : Grid) P1 = some (Z0, some M00) :=
  readBoardAux_step P2 3 (⟨N0, N0, N1, N1, N2, N2, N2, N1, N2⟩ : Grid) P1 [M00, M01] rfl rfl
    (collectScores_cons v101122212 (collectScores_cons v011122212 collectScores_nil)) rfl

theorem v001122210 : readBoardAux P2 5 (⟨N0, N0, N1, N1, N2, N2, N2, N1, N0⟩ : Grid) P2 = some (Z0, some M00) :=
  readBoardAux_step P2 4 (⟨N0, N0, N1, N1, N2, N2, N2, N1, N0⟩ : Grid) P2 [M00, M01, M22] rfl rfl
    (collectScores_cons v201122210 (collectScores_cons v021122210 (collectScores_cons v001122212 collectScores_nil))) rfl

theorem v001122221 : readBoardAux P2 4 (⟨N0, N0, N1, N1, N2, N2, N2, N2, N1⟩ : Grid) P1 = some (Z0, some M01) :=
  readBoardAux_step P2 3 (⟨N0, N0, N1, N1, N2, N2, N2, N2, N1⟩ : Grid) P1 [M00, M01] rfl rfl
    (collectScores_cons v101122221 (collectScores_cons v011122221 collectScores_nil)) rfl

theorem v001122201 : readBoardAux P2 5 (⟨N0, N0, N1, N1, N2, N2, N2, N0, N1⟩ : Grid) P2 = some (Z0, some M00) :=
  readBoardAux_step P2 4 (⟨N0, N0, N1, N1, N2, N2, N2, N0, N1⟩ : Grid) P2 [M00, M01, M21] rfl rfl
    (collectScores_cons v201122201 (collectScores_cons v021122201 (collectScores_cons v001122221 collectScores_nil))) rfl

theorem v001122200 : readBoardAux P2 6 (⟨N0, N0, N1, N1, N2, N2, N2, N0, N0⟩ : Grid) P1 = some (Z0, some M00) :=
  readBoardAux_step P2 5 (⟨N0, N0, N1, N1, N2, N2, N2, N0, N0⟩ : Grid) P1 [M00, M01, M21, M22] rfl rfl
    (collectScores_cons v101122200 (collectScores_cons v011122200 (collectScores_cons v001122210 (collectScores_cons v001122201 collectScores_nil)))) rfl

theorem v001122122 : readBoardAux P2 4 (⟨N0, N0, N1, N1, N2, N2, N1, N2, N2⟩ : Grid) P1 = some (ZM, some M00) :=
  readBoardAux_step P2 3 (⟨N0, N0, N1, N1, N2, N2, N1, N2, N2⟩ : Grid) P1 [M00, M01] rfl rfl
    (collectScores_cons t101122122 (collectScores_cons v011122122 collectScores_nil)) rfl

theorem v001122120 : readBoardAux P2 5 (⟨N0, N0, N1, N1, N2, N2, N1, N2, N0⟩ : Grid) P2 = some (ZP, some M00) :=
  readBoardAux_step P2 4 (⟨N0, N0, N1, N1, N2, N2, N1, N2, N0⟩ : Grid) P2 [M00, M01, M22] rfl rfl
    (collectScores_cons v201122120 (collectScores_cons t021122120 (collectScores_cons v001122122 collectScores_nil))) rfl

theorem v001122021 : readBoardAux P2 5 (⟨N0, N0, N1, N1, N2, N2, N0, N2, N1⟩ : Grid) P2 = some (ZP, some M01) :=
  readBoardAux_step P2 4 (⟨N0, N0, N1, N1, N2, N2, N0, N2, N1⟩ : Grid) P2 [M00, M01, M20] rfl rfl
    (collectScores_cons v201122021 (collectScores_cons t021122021 (collectScores_cons v001122221 collectScores_nil))) rfl

theorem v001122020 : readBoardAux P2 6 (⟨N0, N0, N1, N1, N2, N2, N0, N2, N0⟩ : Grid) P1 = some (Z0, some M01) :=
  readBoardAux_step P2 5 (⟨N0, N0, N1, N1, N2, N2, N0, N2, N0⟩ : Grid) P1 [M00, M01, M20, M22] rfl rfl
    (collectScores_cons v101122020 (collectScores_cons v011122020 (collectScores_cons v001122120 (collectScores_cons v001122021 collectScores_nil)))) rfl

theorem v001122102 : readBoardAux P2 5 (⟨N0, N0, N1, N1, N2, N2, N1, N0, N2⟩ : Grid) P2 = some (ZP, some M00) :=
  readBoardAux_step P2 4 (⟨N0, N0, N1, N1, N2, N2, N1, N0, N2⟩ : Grid) P2 [M00, M01, M21] rfl rfl
    (collectScores_cons t201122102 (collectScores_cons v021122102 (collectScores_cons v001122122 collectScores_nil))) rfl

theorem v001122012 : readBoardAux P2 5 (⟨N0, N0, N1, N1, N2, N2, N0, N1, N2⟩ : Grid) P2 = some (ZP, some M00) :=
  readBoardAux_step P2 4 (⟨N0, N0, N1, N1, N2, N2, N0, N1, N2⟩ : Grid) P2 [M00, M01, M20] rfl rfl
    (collectScores_cons t201122012 (collectScores_cons v021122012 (collectScores_cons v001122212 collectScores_nil))) rfl

theorem v001122002 : readBoardAux P2 6 (⟨N0, N0, N1, N1, N2, N2, N0, N0, N2⟩ : Grid) P1 = some (ZM, some M00) :=
  readBoardAux_step P2 5 (⟨N0, N0, N1, N1, N2, N2, N0, N0, N2⟩ : Grid) P1 [M00, M01, M20, M21] rfl rfl
    (collectScores_cons v101122002 (collectScores_cons v011122002 (collectScores_cons v001122102 (collectScores_cons v001122012 collectScores_nil)))) rfl

theorem v001122000 : readBoardAux P2 7 (⟨N0, N0, N1, N1, N2, N2, N0, N0, N0⟩ : Grid) P2 = some (Z0, some M00) :=
  readBoardAux_step P2 6 (⟨N0, N0, N1, N1, N2, N2, N0, N0, N0⟩ : Grid) P2 [M00, M01, M20, M21, M22] rfl rfl
    (collectScores_cons v201122000 (collectScores_cons v021122000 (collectScores_cons v001122200 (collectScores_cons v001122020 (collectScores_cons v001122002 collectScores_nil))))) rfl

theorem v001022121 : readBoardAux P2 5 (⟨N0, N0, N1, N0, N2, N2, N1, N2, N1⟩ : Grid) P2 = some (ZP, some M00) :=
  readBoardAux_step P2 4 (⟨N0, N0, N1, N0, N2, N2, N1, N2, N1⟩ : Grid) P2 [M00, M01, M10] rfl rfl
    (collectScores_cons v201022121 (collectScores_cons t021022121 (collectScores_cons t001222121 collectScores_nil))) rfl

theorem v001022120 : readBoardAux P2 6 (⟨N0, N0, N1, N0, N2, N2, N1, N2, N0⟩ : Grid) P1 = some (ZP, some M00) :=
  readBoardAux_step P2 5 (⟨N0, N0, N1, N0, N2, N2, N1, N2, N0⟩ : Grid) P1 [M00, M01, M10, M22] rfl rfl
    (collectScores_cons v101022120 (collectScores_cons v011022120 (collectScores_cons v001122120 (collectScores_cons v001022121 collectScores_nil)))) rfl

theorem v001022112 : readBoardAux P2 5 (⟨N0, N0, N1, N0, N2, N2, N1, N1, N2⟩ : Grid) P2 = some (ZP, some M00) :=
  readBoardAux_step P2 4 (⟨N0, N0, N1, N0, N2, N2, N1, N1, N2⟩ : Grid) P2 [M00, M01, M10] rfl rfl
    (collectScores_cons t201022112 (collectScores_cons v021022112 (collectScores_cons t001222112 collectScores_nil))) rfl

theorem v001022102 : readBoardAux P2 6 (⟨N0, N0, N1, N0, N2, N2, N1, N0, N2⟩ : Grid) P1 = some (ZP, some M00) :=
  readBoardAux_step P2 5 (⟨N0, N0, N1, N0, N2, N2, N1, N0, N2⟩ : Grid) P1 [M00, M01, M10, M21] rfl rfl
    (collectScores_cons v101022102 (collectScores_cons v011022102 (collectScores_cons v001122102 (collectScores_cons v001022112 collectScores_nil)))) rfl

theorem v001022100 : readBoardAux P2 7 (⟨N0, N0, N1, N0, N2, N2, N1, N0, N0⟩ : Grid) P2 = some (ZP, some M00) :=
  readBoardAux_step P2 6 (⟨N0, N0, N1, N0, N2, N2, N1, N0, N0⟩ : Grid) P2 [M00, M01, M10, M21, M22] rfl rfl
    (collectScores_cons v201022100 (collectScores_cons v021022100 (collectScores_cons t001222100 (collectScores_cons v001022120 (collectScores_cons v001022102 collectScores_nil))))) rfl

theorem v001022211 : readBoardAux P2 5 (⟨N0, N0, N1, N0, N2, N2, N2, N1, N1⟩ : Grid) P2 = some (ZP, some M10) :=
  readBoardAux_step P2 4 (⟨N0, N0, N1, N0, N2, N2, N2, N1, N1⟩ : Grid) P2 [M00, M01, M10] rfl rfl
    (collectScores_cons v201022211 (collectScores_cons v021022211 (collectScores_cons t001222211 collectScores_nil))) rfl

theorem v001022210 : readBoardAux P2 6 (⟨N0, N0, N1, N0, N2, N2, N2, N1, N0⟩ : Grid) P1 = some (Z0, some M10) :=
  readBoardAux_step P2 5 (⟨N0, N0, N1, N0, N2, N2, N2, N1, N0⟩ : Grid) P1 [M00, M01, M10, M22] rfl rfl
    (collectScores_cons v101022210 (collectScores_cons v011022210 (collectScores_cons v001122210 (collectScores_cons v001022211 collectScores_nil)))) rfl

theorem v001022012 : readBoardAux P2 6 (⟨N0, N0, N1, N0, N2, N2, N0, N1, N2⟩ : Grid) P1 = some (ZP, some M00) :=
  readBoardAux_step P2 5 (⟨N0, N0, N1, N0, N2, N2, N0, N1, N2⟩ : Grid) P1 [M00, M01, M10, M20] rfl rfl
    (collectScores_cons v101022012 (collectScores_cons v011022012 (collectScores_cons v001122012 (collectScores_cons v001022112 collectScores_nil)))) rfl

theorem v001022010 : readBoardAux P2 7 (⟨N0, N0, N1, N0, N2, N2, N0, N1, N0⟩ : Grid) P2 = some (ZP, some M00) :=
  readBoardAux_step P2 6 (⟨N0, N0, N1, N0, N2, N2, N0, N1, N0⟩ : Grid) P2 [M00, M01, M10, M20, M22] rfl rfl
    (collectScores_cons v201022010 (collectScores_cons v021022010 (collectScores_cons t001222010 (collectScores_cons v001022210 (collectScores_cons v001022012 collectScores_nil))))) rfl

theorem v001022201 : readBoardAux P2 6 (⟨N0, N0, N1, N0, N2, N2, N2, N0, N1⟩ : Grid) P1 = some (Z0, some M10) :=
  readBoardAux_step P2 5 (⟨N0, N0, N1, N0, N2, N2, N2, N0, N1⟩ : Grid) P1 [M00, M01, M10, M21] rfl rfl
    (collectScores_cons v101022201 (collectScores_cons v011022201 (collectScores_cons v001122201 (collectScores_cons v001022211 collectScores_nil)))) rfl

theorem v001022021 : readBoardAux P2 6 (⟨N0, N0, N1, N0, N2, N2, N0, N2, N1⟩ : Grid) P1 = some (ZP, some M00) :=
  readBoardAux_step P2 5 (⟨N0, N0, N1, N0, N2, N2, N0, N2, N1⟩ : Grid) P1 [M00, M01, M10, M20] rfl rfl
    (collectScores_cons v101022021 (collectScores_cons v011022021 (collectScores_cons v001122021 (collectScores_cons v001022121 collectScores_nil)))) rfl

theorem v001022001 : readBoardAux P2 7 (⟨N0, N0, N1, N0, N2, N2, N0, N0, N1⟩ : Grid) P2 = some (ZP, some M01) :=
  readBoardAux_step P2 6 (⟨N0, N0, N1, N0, N2, N2, N0, N0, N1⟩ : Grid) P2 [M00, M01, M10, M20, M21] rfl rfl
    (collectScores_cons v201022001 (collectScores_cons v021022001 (collectScores_cons t001222001 (collectScores_cons v001022201 (collectScores_cons v001022021 collectScores_nil))))) rfl

theorem v001022000 : readBoardAux P2 8 (⟨N0, N0, N1, N0, N2, N2, N0, N0, N0⟩ : Grid) P1 = some (Z0, some M10) :=
  readBoardAux_step P2 7 (⟨N0, N0, N1, N0, N2, N2, N0, N0, N0⟩ : Grid) P1 [M00, M01, M10, M20, M21, M22] rfl rfl
    (collectScores_cons v101022000 (collectScores_cons v011022000 (collectScores_cons v001122000 (collectScores_cons v001022100 (collectScores_cons v001022010 (collectScores_cons v001022001 collectScores_nil)))))) rfl

theorem t001121222 : readBoardAux P2 4 (⟨N0, N0, N1, N1, N2, N1, N2, N2, N2⟩ : Grid) P1 = some (ZP, none) :=
  rfl

theorem v001121220 : readBoardAux P2 5 (⟨N0, N0, N1, N1, N2, N1, N2, N2, N0⟩ : Grid) P2 = some (ZP, some M01) :=
  readBoardAux_step P2 4 (⟨N0, N0, N1, N1, N2, N1, N2, N2, N0⟩ : Grid) P2 [M00, M01, M22] rfl rfl
    (collectScores_cons v201121220 (collectScores_cons t021121220 (collectScores_cons t001121222 collectScores_nil))) rfl

theorem v001120221 : readBoardAux P2 5 (⟨N0, N0, N1, N1, N2, N0, N2, N2, N1⟩ : Grid) P2 = some (ZP, some M01) :=
  readBoardAux_step P2 4 (⟨N0, N0, N1, N1, N2, N0, N2, N2, N1⟩ : Grid) P2 [M00, M01, M12] rfl rfl
    (collectScores_cons v201120221 (collectScores_cons t021120221 (collectScores_cons v001122221 collectScores_nil))) rfl

theorem v001120220 : readBoardAux P2 6 (⟨N0, N0, N1, N1, N2, N0, N2, N2, N0⟩ : Grid) P1 = some (ZP, some M00) :=
  readBoardAux_step P2 5 (⟨N0, N0, N1, N1, N2, N0, N2, N2, N0⟩ : Grid) P1 [M00, M01, M12, M22] rfl rfl
    (collectScores_cons v101120220 (collectScores_cons v011120220 (collectScores_cons v001121220 (collectScores_cons v001120221 collectScores_nil)))) rfl

theorem v001121202 : readBoardAux P2 5 (⟨N0, N0, N1, N1, N2, N1, N2, N0, N2⟩ : Grid) P2 = some (ZP, some M00) :=
  readBoardAux_step P2 4 (⟨N0, N0, N1, N1, N2, N1, N2, N0, N2⟩ : Grid) P2 [M00, M01, M21] rfl rfl
    (collectScores_cons t201121202 (collectScores_cons v021121202 (collectScores_cons t001121222 collectScores_nil))) rfl

theorem v001120212 : readBoardAux P2 5 (⟨N0, N0, N1, N1, N2, N0, N2, N1, N2⟩ : Grid) P2 = some (ZP, some M00) :=
  readBoardAux_step P2 4 (⟨N0, N0, N1, N1, N2, N0, N2, N1, N2⟩ : Grid) P2 [M00, M01, M12] rfl rfl
    (collectScores_cons t201120212 (collectScores_cons v021120212 (collectScores_cons v001122212 collectScores_nil))) rfl

theorem v001120202 : readBoardAux P2 6 (⟨N0, N0, N1, N1, N2, N0, N2, N0, N2⟩ : Grid) P1 = some (ZP, some M00) :=
  readBoardAux_step P2 5 (⟨N0, N0, N1, N1, N2, N0, N2, N0, N2⟩ : Grid) P1 [M00, M01, M12, M21] rfl rfl
    (collectScores_cons v101120202 (collectScores_cons v011120202 (collectScores_cons v001121202 (collectScores_cons v001120212 collectScores_nil)))) rfl

theorem v001120200 : readBoardAux P2 7 (⟨N0, N0, N1, N1, N2, N0, N2, N0, N0⟩ : Grid) P2 = some (ZP, some M21) :=
  readBoardAux_step P2 6 (⟨N0, N0, N1, N1, N2, N0, N2, N0, N0⟩ : Grid) P2 [M00, M01, M12, M21, M22] rfl rfl
    (collectScores_cons v201120200 (collectScores_cons v021120200 (collectScores_cons v001122200 (collectScores_cons v001120220 (collectScores_cons v001120202 collectScores_nil))))) rfl

theorem t001021221 : readBoardAux P2 5 (⟨N0, N0, N1, N0, N2, N1, N2, N2, N1⟩ : Grid) P2 = some (ZM, none) :=
  rfl

theorem v001021220 : readBoardAux P2 6 (⟨N0, N0, N1, N0, N2, N1, N2, N2, N0⟩ : Grid) P1 = some (ZM, some M22) :=
  readBoardAux_step P2 5 (⟨N0, N0, N1, N0, N2, N1, N2, N2, N0⟩ : Grid) P1 [M00, M01, M10, M22] rfl rfl
    (collectScores_cons v101021220 (collectScores_cons v011021220 (collectScores_cons v001121220 (collectScores_cons t001021221 collectScores_nil)))) rfl

theorem v001021212 : readBoardAux P2 5 (⟨N0, N0, N1, N0, N2, N1, N2, N1, N2⟩ : Grid) P2 = some (ZP, some M00) :=
  readBoardAux_step P2 4 (⟨N0, N0, N1, N0, N2, N1, N2, N1, N2⟩ : Grid) P2 [M00, M01, M10] rfl rfl
    (collectScores_cons t201021212 (collectScores_cons v021021212 (collectScores_cons v001221212 collectScores_nil))) rfl

theorem v001021202 : readBoardAux P2 6 (⟨N0, N0, N1, N0, N2, N1, N2, N0, N2⟩ : Grid) P1 = some (ZP, some M00) :=
  readBoardAux_step P2 5 (⟨N0, N0, N1, N0, N2, N1, N2, N0, N2⟩ : Grid) P1 [M00, M01, M10, M21] rfl rfl
    (collectScores_cons v101021202 (collectScores_cons v011021202 (collectScores_cons v001121202 (collectScores_cons v001021212 collectScores_nil)))) rfl

theorem v001021200 : readBoardAux P2 7 (⟨N0, N0, N1, N0, N2, N1, N2, N0, N0⟩ : Grid) P2 = some (ZP, some M22) :=
  readBoardAux_step P2 6 (⟨N0, N0, N1, N0, N2, N1, N2, N0, N0⟩ : Grid) P2 [M00, M01, M10, M21, M22] rfl rfl
    (collectScores_cons v201021200 (collectScores_cons v021021200 (collectScores_cons v001221200 (collectScores_cons v001021220 (collectScores_cons v001021202 collectScores_nil))))) rfl

theorem v001020212 : readBoardAux P2 6 (⟨N0, N0, N1, N0, N2, N0, N2, N1, N2⟩ : Grid) P1 = some (Z0, some M00) :=
  readBoardAux_step P2 5 (⟨N0, N0, N1, N0, N2, N0, N2, N1, N2⟩ : Grid) P1 [M00, M01, M10, M12] rfl rfl
    (collectScores_cons v101020212 (collectScores_cons v011020212 (collectScores_cons v001120212 (collectScores_cons v001021212 collectScores_nil)))) rfl

theorem v001020210 : readBoardAux P2 7 (⟨N0, N0, N1, N0, N2, N0, N2, N1, N0⟩ : Grid) P2 = some (ZP, some M00) :=
  readBoardAux_step P2 6 (⟨N0, N0, N1, N0, N2, N0, N2, N1, N0⟩ : Grid) P2 [M00, M01, M10, M12, M22] rfl rfl
    (collectScores_cons v201020210 (collectScores_cons v021020210 (collectScores_cons v001220210 (collectScores_cons v001022210 (collectScores_cons v001020212 collectScores_nil))))) rfl

theorem v001020221 : readBoardAux P2 6 (⟨N0, N0, N1, N0, N2, N0, N2, N2, N1⟩ : Grid) P1 = some (ZM, some M01) :=
  readBoardAux_step P2 5 (⟨N0, N0, N1, N0, N2, N0, N2, N2, N1⟩ : Grid) P1 [M00, M01, M10, M12] rfl rfl
    (collectScores_cons v101020221 (collectScores_cons v011020221 (collectScores_cons v001120221 (collectScores_cons t001021221 collectScores_nil)))) rfl

theorem v001020201 : readBoardAux P2 7 (⟨N0, N0, N1, N0, N2, N0, N2, N0, N1⟩ : Grid) P2 = some (Z0, some M12) :=
  readBoardAux_step P2 6 (⟨N0, N0, N1, N0, N2, N0, N2, N0, N1⟩ : Grid) P2 [M00, M01, M10, M12, M21] rfl rfl
    (collectScores_cons v201020201 (collectScores_cons v021020201 (collectScores_cons v001220201 (collectScores_cons v001022201 (collectScores_cons v001020221 collectScores_nil))))) rfl

theorem v001020200 : readBoardAux P2 8 (⟨N0, N0, N1, N0, N2, N0, N2, N0, N0⟩ : Grid) P1 = some (Z0, some M00) :=
  readBoardAux_step P2 7 (⟨N0, N0, N1, N0, N2, N0, N2, N0, N0⟩ : Grid) P1 [M00, M01, M10, M12, M21, M22] rfl rfl
    (collectScores_cons v101020200 (collectScores_cons v011020200 (collectScores_cons v001120200 (collectScores_cons v001021200 (collectScores_cons v001020210 (collectScores_cons v001020201 collectScores_nil)))))) rfl

theorem v001121022 : readBoardAux P2 5 (⟨N0, N0, N1, N1, N2, N1, N0, N2, N2⟩ : Grid) P2 = some (ZP, some M00) :=
  readBoardAux_step P2 4 (⟨N0, N0, N1, N1, N2, N1, N0, N2, N2⟩ : Grid) P2 [M00, M01, M20] rfl rfl
    (collectScores_cons t201121022 (collectScores_cons t021121022 (collectScores_cons t001121222 collectScores_nil))) rfl

theorem v001120122 : readBoardAux P2 5 (⟨N0, N0, N1, N1, N2, N0, N1, N2, N2⟩ : Grid) P2 = some (ZP, some M00) :=
  readBoardAux_step P2 4 (⟨N0, N0, N1, N1, N2, N0, N1, N2, N2⟩ : Grid) P2 [M00, M01, M12] rfl rfl
    (collectScores_cons t201120122 (collectScores_cons t021120122 (collectScores_cons v001122122 collectScores_nil))) rfl

theorem v001120022 : readBoardAux P2 6 (⟨N0, N0, N1, N1, N2, N0, N0, N2, N2⟩ : Grid) P1 = some (ZP, some M00) :=
  readBoardAux_step P2 5 (⟨N0, N0, N1, N1, N2, N0, N0, N2, N2⟩ : Grid) P1 [M00, M01, M12, M20] rfl rfl
    (collectScores_cons v101120022 (collectScores_cons v011120022 (collectScores_cons v001121022 (collectScores_cons v001120122 collectScores_nil)))) rfl

theorem v001120020 : readBoardAux P2 7 (⟨N0, N0, N1, N1, N2, N0, N0, N2, N0⟩ : Grid) P2 = some (ZP, some M00) :=
  readBoardAux_step P2 6 (⟨N0, N0, N1, N1, N2, N0, N0, N2, N0⟩ : Grid) P2 [M00, M01, M12, M20, M22] rfl rfl
    (collectScores_cons v201120020 (collectScores_cons t021120020 (collectScores_cons v001122020 (collectScores_cons v001120220 (collectScores_cons v001120022 collectScores_nil))))) rfl

theorem v001021122 : readBoardAux P2 5 (⟨N0, N0, N1, N0, N2, N1, N1, N2, N2⟩ : Grid) P2 = some (ZP, some M00) :=
  readBoardAux_step P2 4 (⟨N0, N0, N1, N0, N2, N1, N1, N2, N2⟩ : Grid) P2 [M00, M01, M10] rfl rfl
    (collectScores_cons t201021122 (collectScores_cons t021021122 (collectScores_cons v001221122 collectScores_nil))) rfl

theorem v001021022 : readBoardAux P2 6 (⟨N0, N0, N1, N0, N2, N1, N0, N2, N2⟩ : Grid) P1 = some (ZP, some M00) :=
  readBoardAux_step P2 5 (⟨N0, N0, N1, N0, N2, N1, N0, N2, N2⟩ : Grid) P1 [M00, M01, M10, M20] rfl rfl
    (collectScores_cons v101021022 (collectScores_cons v011021022 (collectScores_cons v001121022 (collectScores_cons v001021122 collectScores_nil)))) rfl

theorem v001021020 : readBoardAux P2 7 (⟨N0, N0, N1, N0, N2, N1, N0, N2, N0⟩ : Grid) P2 = some (ZP, some M01) :=
  readBoardAux_step P2 6 (⟨N0, N0, N1, N0, N2, N1, N0, N2, N0⟩ : Grid) P2 [M00, M01, M10, M20, M22] rfl rfl
    (collectScores_cons v201021020 (collectScores_cons t021021020 (collectScores_cons v001221020 (collectScores_cons v001021220 (collectScores_cons v001021022 collectScores_nil))))) rfl

theorem v001020122 : readBoardAux P2 6 (⟨N0, N0, N1, N0, N2, N0, N1, N2, N2⟩ : Grid) P1 = some (ZP, some M00) :=
  readBoardAux_step P2 5 (⟨N0, N0, N1, N0, N2, N0, N1, N2, N2⟩ : Grid) P1 [M00, M01, M10, M12] rfl rfl
    (collectScores_cons v101020122 (collectScores_cons v011020122 (collectScores_cons v001120122 (collectScores_cons v001021122 collectScores_nil)))) rfl

theorem v001020120 : readBoardAux P2 7 (⟨N0, N0, N1, N0, N2, N0, N1, N2, N0⟩ : Grid) P2 = some (ZP, some M00) :=
  readBoardAux_step P2 6 (⟨N0, N0, N1, N0, N2, N0, N1, N2, N0⟩ : Grid) P2 [M00, M01, M10, M12, M22] rfl rfl
    (collectScores_cons v201020120 (collectScores_cons t021020120 (collectScores_cons v001220120 (collectScores_cons v001022120 (collectScores_cons v001020122 collectScores_nil))))) rfl

theorem v001020021 : readBoardAux P2 7 (⟨N0, N0, N1, N0, N2, N0, N0, N2, N1⟩ : Grid) P2 = some (ZP, some M01) :=
  readBoardAux_step P2 6 (⟨N0, N0, N1, N0, N2, N0, N0, N2, N1⟩ : Grid) P2 [M00, M01, M10, M12, M20] rfl rfl
    (collectScores_cons v201020021 (collectScores_cons t021020021 (collectScores_cons v001220021 (collectScores_cons v001022021 (collectScores_cons v001020221 collectScores_nil))))) rfl

theorem v001020020 : readBoardAux P2 8 (⟨N0, N0, N1, N0, N2, N0, N0, N2, N0⟩ : Grid) P1 = some (Z0, some M01) :=
  readBoardAux_step P2 7 (⟨N0, N0, N1, N0, N2, N0, N0, N2, N0⟩ : Grid) P1 [M00, M01, M10, M12, M20, M22] rfl rfl
    (collectScores_cons v101020020 (collectScores_cons v011020020 (collectScores_cons v001120020 (collectScores_cons v001021020 (collectScores_cons v001020120 (collectScores_cons v001020021 collectScores_nil)))))) rfl

theorem v001120002 : readBoardAux P2 7 (⟨N0, N0, N1, N1, N2, N0, N0, N0, N2⟩ : Grid) P2 = some (ZP, some M00) :=
  readBoardAux_step P2 6 (⟨N0, N0, N1, N1, N2, N0, N0, N0, N2⟩ : Grid) P2 [M00, M01, M12, M20, M21] rfl rfl
    (collectScores_cons t201120002 (collectScores_cons v021120002 (collectScores_cons v001122002 (collectScores_cons v001120202 (collectScores_cons v001120022 collectScores_nil))))) rfl

theorem v001021002 : readBoardAux P2 7 (⟨N0, N0, N1, N0, N2, N1, N0, N0, N2⟩ : Grid) P2 = some (ZP, some M00) :=
  readBoardAux_step P2 6 (⟨N0, N0, N1, N0, N2, N1, N0, N0, N2⟩ : Grid) P2 [M00, M01, M10, M20, M21] rfl rfl
    (collectScores_cons t201021002 (collectScores_cons v021021002 (collectScores_cons v001221002 (collectScores_cons v001021202 (collectScores_cons v001021022 collectScores_nil))))) rfl

theorem v001020102 : readBoardAux P2 7 (⟨N0, N0, N1, N0, N2, N0, N1, N0, N2⟩ : Grid) P2 = some (ZP, some M00) :=
  readBoardAux_step P2 6 (⟨N0, N0, N1, N0, N2, N0, N1, N0, N2⟩ : Grid) P2 [M00, M01, M10, M12, M21] rfl rfl
    (collectScores_cons t201020102 (collectScores_cons v021020102 (collectScores_cons v001220102 (collectScores_cons v001022102 (collectScores_cons v001020122 collectScores_nil))))) rfl

theorem v001020012 : readBoardAux P2 7 (⟨N0, N0, N1, N0, N2, N0, N0, N1, N2⟩ : Grid) P2 = some (ZP, some M00) :=
  readBoardAux_step P2 6 (⟨N0, N0, N1, N0, N2, N0, N0, N1, N2⟩ : Grid) P2 [M00, M01, M10, M12, M20] rfl rfl
    (collectScores_cons t201020012 (collectScores_cons v021020012 (collectScores_cons v001220012 (collectScores_cons v001022012 (collectScores_cons v001020212 collectScores_nil))))) rfl

theorem v001020002 : readBoardAux P2 8 (⟨N0, N0, N1, N0, N2, N0, N0, N0, N2⟩ : Grid) P1 = some (Z0, some M00) :=
  readBoardAux_step P2 7 (⟨N0, N0, N1, N0, N2, N0, N0, N0, N2⟩ : Grid) P1 [M00, M01, M10, M12, M20, M21] rfl rfl
    (collectScores_cons v101020002 (collectScores_cons v011020002 (collectScores_cons v001120002 (collectScores_cons v001021002 (collectScores_cons v001020102 (collectScores_cons v001020012 collectScores_nil)))))) rfl

theorem v001020000 : readBoardAux P2 9 (⟨N0, N0, N1, N0, N2, N0, N0, N0, N0⟩ : Grid) P2 = some (Z0, some M00) :=
  readBoardAux_step P2 8 (⟨N0, N0, N1, N0, N2, N0, N0, N0, N0⟩ : Grid) P2 [M00, M01, M10, M12, M20, M21, M22] rfl rfl
    (collectScores_cons v201020000 (collectScores_cons v021020000 (collectScores_cons v001220000 (collectScores_cons v001022000 (collectScores_cons v001020200 (collectScores_cons v001020020 (collectScores_cons v001020002 collectScores_nil))))))) rfl

theorem v000122121 : readBoardAux P2 5 (⟨N0, N0, N0, N1, N2, N2, N1, N2, N1⟩ : Grid) P2 = some (ZP, some M01) :=
  readBoardAux_step P2 4 (⟨N0, N0, N0, N1, N2, N2, N1, N2, N1⟩ : Grid) P2 [M00, M01, M02] rfl rfl
    (collectScores_cons v200122121 (collectScores_cons t020122121 (collectScores_cons v002122121 collectScores_nil))) rfl

theorem v000122120 : readBoardAux P2 6 (⟨N0, N0, N0, N1, N2, N2, N1, N2, N0⟩ : Grid) P1 = some (ZM, some M00) :=
  readBoardAux_step P2 5 (⟨N0, N0, N0, N1, N2, N2, N1, N2, N0⟩ : Grid) P1 [M00, M01, M02, M22] rfl rfl
    (collectScores_cons t100122120 (collectScores_cons v010122120 (collectScores_cons v001122120 (collectScores_cons v000122121 collectScores_nil)))) rfl

theorem v000122112 : readBoardAux P2 5 (⟨N0, N0, N0, N1, N2, N2, N1, N1, N2⟩ : Grid) P2 = some (ZP, some M00) :=
  readBoardAux_step P2 4 (⟨N0, N0, N0, N1, N2, N2, N1, N1, N2⟩ : Grid) P2 [M00, M01, M02] rfl rfl
    (collectScores_cons t200122112 (collectScores_cons v020122112 (collectScores_cons t002122112 collectScores_nil))) rfl

theorem v000122102 : readBoardAux P2 6 (⟨N0, N0, N0, N1, N2, N2, N1, N0, N2⟩ : Grid) P1 = some (ZM, some M00) :=
  readBoardAux_step P2 5 (⟨N0, N0, N0, N1, N2, N2, N1, N0, N2⟩ : Grid) P1 [M00, M01, M02, M21] rfl rfl
    (collectScores_cons t100122102 (collectScores_cons v010122102 (collectScores_cons v001122102 (collectScores_cons v000122112 collectScores_nil)))) rfl

theorem v000122100 : readBoardAux P2 7 (⟨N0, N0, N0, N1, N2, N2, N1, N0, N0⟩ : Grid) P2 = some (Z0, some M00) :=
  readBoardAux_step P2 6 (⟨N0, N0, N0, N1, N2, N2, N1, N0, N0⟩ : Grid) P2 [M00, M01, M02, M21, M22] rfl rfl
    (collectScores_cons v200122100 (collectScores_cons v020122100 (collectScores_cons v002122100 (collectScores_cons v000122120 (collectScores_cons v000122102 collectScores_nil))))) rfl

theorem v000122211 : readBoardAux P2 5 (⟨N0, N0, N0, N1, N2, N2, N2, N1, N1⟩ : Grid) P2 = some (ZP, some M02) :=
  readBoardAux_step P2 4 (⟨N0, N0, N0, N1, N2, N2, N2, N1, N1⟩ : Grid) P2 [M00, M01, M02] rfl rfl
    (collectScores_cons v200122211 (collectScores_cons v020122211 (collectScores_cons t002122211 collectScores_nil))) rfl

theorem v000122210 : readBoardAux P2 6 (⟨N0, N0, N0, N1, N2, N2, N2, N1, N0⟩ : Grid) P1 = some (Z0, some M02) :=
  readBoardAux_step P2 5 (⟨N0, N0, N0, N1, N2, N2, N2, N1, N0⟩ : Grid) P1 [M00, M01, M02, M22] rfl rfl
    (collectScores_cons v100122210 (collectScores_cons v010122210 (collectScores_cons v001122210 (collectScores_cons v000122211 collectScores_nil)))) rfl

theorem v000122012 : readBoardAux P2 6 (⟨N0, N0, N0, N1, N2, N2, N0, N1, N2⟩ : Grid) P1 = some (ZP, some M00) :=
  readBoardAux_step P2 5 (⟨N0, N0, N0, N1, N2, N2, N0, N1, N2⟩ : Grid) P1 [M00, M01, M02, M20] rfl rfl
    (collectScores_cons v100122012 (collectScores_cons v010122012 (collectScores_cons v001122012 (collectScores_cons v000122112 collectScores_nil)))) rfl

theorem v000122010 : readBoardAux P2 7 (⟨N0, N0, N0, N1, N2, N2, N0, N1, N0⟩ : Grid) P2 = some (ZP, some M02) :=
  readBoardAux_step P2 6 (⟨N0, N0, N0, N1, N2, N2, N0, N1, N0⟩ : Grid) P2 [M00, M01, M02, M20, M22] rfl rfl
    (collectScores_cons v200122010 (collectScores_cons v020122010 (collectScores_cons v002122010 (collectScores_cons v000122210 (collectScores_cons v000122012 collectScores_nil))))) rfl

theorem v000122201 : readBoardAux P2 6 (⟨N0, N0, N0, N1, N2, N2, N2, N0, N1⟩ : Grid) P1 = some (Z0, some M02) :=
  readBoardAux_step P2 5 (⟨N0, N0, N0, N1, N2, N2, N2, N0, N1⟩ : Grid) P1 [M00, M01, M02, M21] rfl rfl
    (collectScores_cons v100122201 (collectScores_cons v010122201 (collectScores_cons v001122201 (collectScores_cons v000122211 collectScores_nil)))) rfl

theorem v000122021 : readBoardAux P2 6 (⟨N0, N0, N0, N1, N2, N2, N0, N2, N1⟩ : Grid) P1 = some (Z0, some M01) :=
  readBoardAux_step P2 5 (⟨N0, N0, N0, N1, N2, N2, N0, N2, N1⟩ : Grid) P1 [M00, M01, M02, M20] rfl rfl
    (collectScores_cons v100122021 (collectScores_cons v010122021 (collectScores_cons v001122021 (collectScores_cons v000122121 collectScores_nil)))) rfl

theorem v000122001 : readBoardAux P2 7 (⟨N0, N0, N0, N1, N2, N2, N0, N0, N1⟩ : Grid) P2 = some (Z0, some M00) :=
  readBoardAux_step P2 6 (⟨N0, N0, N0, N1, N2, N2, N0, N0, N1⟩ : Grid) P2 [M00, M01, M02, M20, M21] rfl rfl
    (collectScores_cons v200122001 (collectScores_cons v020122001 (collectScores_cons v002122001 (collectScores_cons v000122201 (collectScores_cons v000122021 collectScores_nil))))) rfl

theorem v000122000 : readBoardAux P2 8 (⟨N0, N0, N0, N1, N2, N2, N0, N0, N0⟩ : Grid) P1 = some (Z0, some M00) :=
  readBoardAux_step P2 7 (⟨N0, N0, N0, N1, N2, N2, N0, N0, N0⟩ : Grid) P1 [M00, M01, M02, M20, M21, M22] rfl rfl
    (collectScores_cons v100122000 (collectScores_cons v010122000 (collectScores_cons v001122000 (collectScores_cons v000122100 (collectScores_cons v000122010 (collectScores_cons v000122001 collectScores_nil)))))) rfl

theorem v000121221 : readBoardAux P2 5 (⟨N0, N0, N0, N1, N2, N1, N2, N2, N1⟩ : Grid) P2 = some (ZP, some M01) :=
  readBoardAux_step P2 4 (⟨N0, N0, N0, N1, N2, N1, N2, N2, N1⟩ : Grid) P2 [M00, M01, M02] rfl rfl
    (collectScores_cons v200121221 (collectScores_cons t020121221 (collectScores_cons t002121221 collectScores_nil))) rfl

theorem v000121220 : readBoardAux P2 6 (⟨N0, N0, N0, N1, N2, N1, N2, N2, N0⟩ : Grid) P1 = some (ZP, some M00) :=
  readBoardAux_step P2 5 (⟨N0, N0, N0, N1, N2, N1, N2, N2, N0⟩ : Grid) P1 [M00, M01, M02, M22] rfl rfl
    (collectScores_cons v100121220 (collectScores_cons v010121220 (collectScores_cons v001121220 (collectScores_cons v000121221 collectScores_nil)))) rfl

theorem v000121212 : readBoardAux P2 5 (⟨N0, N0, N0, N1, N2, N1, N2, N1, N2⟩ : Grid) P2 = some (ZP, some M00) :=
  readBoardAux_step P2 4 (⟨N0, N0, N0, N1, N2, N1, N2, N1, N2⟩ : Grid) P2 [M00, M01, M02] rfl rfl
    (collectScores_cons t200121212 (collectScores_cons v020121212 (collectScores_cons t002121212 collectScores_nil))) rfl

theorem v000121202 : readBoardAux P2 6 (⟨N0, N0, N0, N1, N2, N1, N2, N0, N2⟩ : Grid) P1 = some (ZP, some M00) :=
  readBoardAux_step P2 5 (⟨N0, N0, N0, N1, N2, N1, N2, N0, N2⟩ : Grid) P1 [M00, M01, M02, M21] rfl rfl
    (collectScores_cons v100121202 (collectScores_cons v010121202 (collectScores_cons v001121202 (collectScores_cons v000121212 collectScores_nil)))) rfl

theorem v000121200 : readBoardAux P2 7 (⟨N0, N0, N0, N1, N2, N1, N2, N0, N0⟩ : Grid) P2 = some (ZP, some M00) :=
  readBoardAux_step P2 6 (⟨N0, N0, N0, N1, N2, N1, N2, N0, N0⟩ : Grid) P2 [M00, M01, M02, M21, M22] rfl rfl
    (collectScores_cons v200121200 (collectScores_cons v020121200 (collectScores_cons t002121200 (collectScores_cons v000121220 (collectScores_cons v000121202 collectScores_nil))))) rfl

theorem v000120212 : readBoardAux P2 6 (⟨N0, N0, N0, N1, N2, N0, N2, N1, N2⟩ : Grid) P1 = some (ZP, some M00) :=
  readBoardAux_step P2 5 (⟨N0, N0, N0, N1, N2, N0, N2, N1, N2⟩ : Grid) P1 [M00, M01, M02, M12] rfl rfl
    (collectScores_cons v100120212 (collectScores_cons v010120212 (collectScores_cons v001120212 (collectScores_cons v000121212 collectScores_nil)))) rfl

theorem v000120210 : readBoardAux P2 7 (⟨N0, N0, N0, N1, N2, N0, N2, N1, N0⟩ : Grid) P2 = some (ZP, some M00) :=
  readBoardAux_step P2 6 (⟨N0, N0, N0, N1, N2, N0, N2, N1, N0⟩ : Grid) P2 [M00, M01, M02, M12, M22] rfl rfl
    (collectScores_cons v200120210 (collectScores_cons v020120210 (collectScores_cons t002120210 (collectScores_cons v000122210 (collectScores_cons v000120212 collectScores_nil))))) rfl

theorem v000120221 : readBoardAux P2 6 (⟨N0, N0, N0, N1, N2, N0, N2, N2, N1⟩ : Grid) P1 = some (ZP, some M00) :=
  readBoardAux_step P2 5 (⟨N0, N0, N0, N1, N2, N0, N2, N2, N1⟩ : Grid) P1 [M00, M01, M02, M12] rfl rfl
    (collectScores_cons v100120221 (collectScores_cons v010120221 (collectScores_cons v001120221 (collectScores_cons v000121221 collectScores_nil)))) rfl

theorem v000120201 : readBoardAux P2 7 (⟨N0, N0, N0, N1, N2, N0, N2, N0, N1⟩ : Grid) P2 = some (ZP, some M01) :=
  readBoardAux_step P2 6 (⟨N0, N0, N0, N1, N2, N0, N2, N0, N1⟩ : Grid) P2 [M00, M01, M02, M12, M21] rfl rfl
    (collectScores_cons v200120201 (collectScores_cons v020120201 (collectScores_cons t002120201 (collectScores_cons v000122201 (collectScores_cons v000120221 collectScores_nil))))) rfl

theorem v000120200 : readBoardAux P2 8 (⟨N0, N0, N0, N1, N2, N0, N2, N0, N0⟩ : Grid) P1 = some (ZP, some M00) :=
  readBoardAux_step P2 7 (⟨N0, N0, N0, N1, N2, N0, N2, N0, N0⟩ : Grid) P1 [M00, M01, M02, M12, M21, M22] rfl rfl
    (collectScores_cons v100120200 (collectScores_cons v010120200 (collectScores_cons v001120200 (collectScores_cons v000121200 (collectScores_cons v000120210 (collectScores_cons v000120201 collectScores_nil)))))) rfl

theorem v000121122 : readBoardAux P2 5 (⟨N0, N0, N0, N1, N2, N1, N1, N2, N2⟩ : Grid) P2 = some (ZP, some M00) :=
  readBoardAux_step P2 4 (⟨N0, N0, N0, N1, N2, N1, N1, N2, N2⟩ : Grid) P2 [M00, M01, M02] rfl rfl
    (collectScores_cons t200121122 (collectScores_cons t020121122 (collectScores_cons v002121122 collectScores_nil))) rfl

theorem v000121022 : readBoardAux P2 6 (⟨N0, N0, N0, N1, N2, N1, N0, N2, N2⟩ : Grid) P1 = some (ZP, some M00) :=
  readBoardAux_step P2 5 (⟨N0, N0, N0, N1, N2, N1, N0, N2, N2⟩ : Grid) P1 [M00, M01, M02, M20] rfl rfl
    (collectScores_cons v100121022 (collectScores_cons v010121022 (collectScores_cons v001121022 (collectScores_cons v000121122 collectScores_nil)))) rfl

theorem v000121020 : readBoardAux P2 7 (⟨N0, N0, N0, N1, N2, N1, N0, N2, N0⟩ : Grid) P2 = some (ZP, some M00) :=
  readBoardAux_step P2 6 (⟨N0, N0, N0, N1, N2, N1, N0, N2, N0⟩ : Grid) P2 [M00, M01, M02, M20, M22] rfl rfl
    (collectScores_cons v200121020 (collectScores_cons t020121020 (collectScores_cons v002121020 (collectScores_cons v000121220 (collectScores_cons v000121022 collectScores_nil))))) rfl

theorem v000120122 : readBoardAux P2 6 (⟨N0, N0, N0, N1, N2, N0, N1, N2, N2⟩ : Grid) P1 = some (ZM, some M00) :=
  readBoardAux_step P2 5 (⟨N0, N0, N0, N1, N2, N0, N1, N2, N2⟩ : Grid) P1 [M00, M01, M02, M12] rfl rfl
    (collectScores_cons t100120122 (collectScores_cons v010120122 (collectScores_cons v001120122 (collectScores_cons v000121122 collectScores_nil)))) rfl

theorem v000120120 : readBoardAux P2 7 (⟨N0, N0, N0, N1, N2, N0, N1, N2, N0⟩ : Grid) P2 = some (ZP, some M00) :=
  readBoardAux_step P2 6 (⟨N0, N0, N0, N1, N2, N0, N1, N2, N0⟩ : Grid) P2 [M00, M01, M02, M12, M22] rfl rfl
    (collectScores_cons v200120120 (collectScores_cons t020120120 (collectScores_cons v002120120 (collectScores_cons v000122120 (collectScores_cons v000120122 collectScores_nil))))) rfl

theorem v000120021 : readBoardAux P2 7 (⟨N0, N0, N0, N1, N2, N0, N0, N2, N1⟩ : Grid) P2 = some (ZP, some M01) :=
  readBoardAux_step P2 6 (⟨N0, N0, N0, N1, N2, N0, N0, N2, N1⟩ : Grid) P2 [M00, M01, M02, M12, M20] rfl rfl
    (collectScores_cons v200120021 (collectScores_cons t020120021 (collectScores_cons v002120021 (collectScores_cons v000122021 (collectScores_cons v000120221 collectScores_nil))))) rfl

theorem v000120020 : readBoardAux P2 8 (⟨N0, N0, N0, N1, N2, N0, N0, N2, N0⟩ : Grid) P1 = some (ZP, some M00) :=
  readBoardAux_step P2 7 (⟨N0, N0, N0, N1, N2, N0, N0, N2, N0⟩ : Grid) P1 [M00, M01, M02, M12, M20, M22] rfl rfl
    (collectScores_cons v100120020 (collectScores_cons v010120020 (collectScores_cons v001120020 (collectScores_cons v000121020 (collectScores_cons v000120120 (collectScores_cons v000120021 collectScores_nil)))))) rfl

theorem v000121002 : readBoardAux P2 7 (⟨N0, N0, N0, N1, N2, N1, N0, N0, N2⟩ : Grid) P2 = some (ZP, some M00) :=
  readBoardAux_step P2 6 (⟨N0, N0, N0, N1, N2, N1, N0, N0, N2⟩ : Grid) P2 [M00, M01, M02, M20, M21] rfl rfl
    (collectScores_cons t200121002 (collectScores_cons v020121002 (collectScores_cons v002121002 (collectScores_cons v000121202 (collectScores_cons v000121022 collectScores_nil))))) rfl

theorem v000120102 : readBoardAux P2 7 (⟨N0, N0, N0, N1, N2, N0, N1, N0, N2⟩ : Grid) P2 = some (ZP, some M00) :=
  readBoardAux_step P2 6 (⟨N0, N0, N0, N1, N2, N0, N1, N0, N2⟩ : Grid) P2 [M00, M01, M02, M12, M21] rfl rfl
    (collectScores_cons t200120102 (collectScores_cons v020120102 (collectScores_cons v002120102 (collectScores_cons v000122102 (collectScores_cons v000120122 collectScores_nil))))) rfl

theorem v000120012 : readBoardAux P2 7 (⟨N0, N0, N0, N1, N2, N0, N0, N1, N2⟩ : Grid) P2 = some (ZP, some M00) :=
  readBoardAux_step P2 6 (⟨N0, N0, N0, N1, N2, N0, N0, N1, N2⟩ : Grid) P2 [M00, M01, M02, M12, M20] rfl rfl
    (collectScores_cons t200120012 (collectScores_cons v020120012 (collectScores_cons v002120012 (collectScores_cons v000122012 (collectScores_cons v000120212 collectScores_nil))))) rfl

theorem v000120002 : readBoardAux P2 8 (⟨N0, N0, N0, N1, N2, N0, N0, N0, N2⟩ : Grid) P1 = some (ZP, some M00) :=
  readBoardAux_step P2 7 (⟨N0, N0, N0, N1, N2, N0, N0, N0, N2⟩ : Grid) P1 [M00, M01, M02, M12, M20, M21] rfl rfl
    (collectScores_cons v100120002 (collectScores_cons v010120002 (collectScores_cons v001120002 (collectScores_cons v000121002 (collectScores_cons v000120102 (collectScores_cons v000120012 collectScores_nil)))))) rfl

theorem v000120000 : readBoardAux P2 9 (⟨N0, N0, N0, N1, N2, N0, N0, N0, N0⟩ : Grid) P2 = some (ZP, some M00) :=
  readBoardAux_step P2 8 (⟨N0, N0, N0, N1, N2, N0, N0, N0, N0⟩ : Grid) P2 [M00, M01, M02, M12, M20, M21, M22] rfl rfl
    (collectScores_cons v200120000 (collectScores_cons v020120000 (collectScores_cons v002120000 (collectScores_cons v000122000 (collectScores_cons v000120200 (collectScores_cons v000120020 (collectScores_cons v000120002 collectScores_nil))))))) rfl

theorem v000021212 : readBoardAux P2 6 (⟨N0, N0, N0, N0, N2, N1, N2, N1, N2⟩ : Grid) P1 = some (ZP, some M00) :=
  readBoardAux_step P2 5 (⟨N0, N0, N0, N0, N2, N1, N2, N1, N2⟩ : Grid) P1 [M00, M01, M02, M10] rfl rfl
    (collectScores_cons v100021212 (collectScores_cons v010021212 (collectScores_cons v001021212 (collectScores_cons v000121212 collectScores_nil)))) rfl

theorem v000021210 : readBoardAux P2 7 (⟨N0, N0, N0, N0, N2, N1, N2, N1, N0⟩ : Grid) P2 = some (ZP, some M00) :=
  readBoardAux_step P2 6 (⟨N0, N0, N0, N0, N2, N1, N2, N1, N0⟩ : Grid) P2 [M00, M01, M02, M10, M22] rfl rfl
    (collectScores_cons v200021210 (collectScores_cons v020021210 (collectScores_cons t002021210 (collectScores_cons v000221210 (collectScores_cons v000021212 collectScores_nil))))) rfl

theorem v000021221 : readBoardAux P2 6 (⟨N0, N0, N0, N0, N2, N1, N2, N2, N1⟩ : Grid) P1 = some (ZM, some M02) :=
  readBoardAux_step P2 5 (⟨N0, N0, N0, N0, N2, N1, N2, N2, N1⟩ : Grid) P1 [M00, M01, M02, M10] rfl rfl
    (collectScores_cons v100021221 (collectScores_cons v010021221 (collectScores_cons t001021221 (collectScores_cons v000121221 collectScores_nil)))) rfl

theorem v000021201 : readBoardAux P2 7 (⟨N0, N0, N0, N0, N2, N1, N2, N0, N1⟩ : Grid) P2 = some (ZP, some M02) :=
  readBoardAux_step P2 6 (⟨N0, N0, N0, N0, N2, N1, N2, N0, N1⟩ : Grid) P2 [M00, M01, M02, M10, M21] rfl rfl
    (collectScores_cons v200021201 (collectScores_cons v020021201 (collectScores_cons t002021201 (collectScores_cons v000221201 (collectScores_cons v000021221 collectScores_nil))))) rfl

theorem v000021200 : readBoardAux P2 8 (⟨N0, N0, N0, N0, N2, N1, N2, N0, N0⟩ : Grid) P1 = some (ZP, some M00) :=
  readBoardAux_step P2 7 (⟨N0, N0, N0, N0, N2, N1, N2, N0, N0⟩ : Grid) P1 [M00, M01, M02, M10, M21, M22] rfl rfl
    (collectScores_cons v100021200 (collectScores_cons v010021200 (collectScores_cons v001021200 (collectScores_cons v000121200 (collectScores_cons v000021210 (collectScores_cons v000021201 collectScores_nil)))))) rfl

theorem v000021122 : readBoardAux P2 6 (⟨N0, N0, N0, N0, N2, N1, N1, N2, N2⟩ : Grid) P1 = some (ZP, some M00) :=
  readBoardAux_step P2 5 (⟨N0, N0, N0, N0, N2, N1, N1, N2, N2⟩ : Grid) P1 [M00, M01, M02, M10] rfl rfl
    (collectScores_cons v100021122 (collectScores_cons v010021122 (collectScores_cons v001021122 (collectScores_cons v000121122 collectScores_nil)))) rfl

theorem v000021120 : readBoardAux P2 7 (⟨N0, N0, N0, N0, N2, N1, N1, N2, N0⟩ : Grid) P2 = some (ZP, some M00) :=
  readBoardAux_step P2 6 (⟨N0, N0, N0, N0, N2, N1, N1, N2, N0⟩ : Grid) P2 [M00, M01, M02, M10, M22] rfl rfl
    (collectScores_cons v200021120 (collectScores_cons t020021120 (collectScores_cons v002021120 (collectScores_cons v000221120 (collectScores_cons v000021122 collectScores_nil))))) rfl

theorem v000021021 : readBoardAux P2 7 (⟨N0, N0, N0, N0, N2, N1, N0, N2, N1⟩ : Grid) P2 = some (ZP, some M01) :=
  readBoardAux_step P2 6 (⟨N0, N0, N0, N0, N2, N1, N0, N2, N1⟩ : Grid) P2 [M00, M01, M02, M10, M20] rfl rfl
    (collectScores_cons v200021021 (collectScores_cons t020021021 (collectScores_cons v002021021 (collectScores_cons v000221021 (collectScores_cons v000021221 collectScores_nil))))) rfl

theorem v000021020 : readBoardAux P2 8 (⟨N0, N0, N0, N0, N2, N1, N0, N2, N0⟩ : Grid) P1 = some (ZP, some M00) :=
  readBoardAux_step P2 7 (⟨N0, N0, N0, N0, N2, N1, N0, N2, N0⟩ : Grid) P1 [M00, M01, M02, M10, M20, M22] rfl rfl
    (collectScores_cons v100021020 (collectScores_cons v010021020 (collectScores_cons v001021020 (collectScores_cons v000121020 (collectScores_cons v000021120 (collectScores_cons v000021021 collectScores_nil)))))) rfl

theorem v000021102 : readBoardAux P2 7 (⟨N0, N0, N0, N0, N2, N1, N1, N0, N2⟩ : Grid) P2 = some (ZP, some M00) :=
  readBoardAux_step P2 6 (⟨N0, N0, N0, N0, N2, N1, N1, N0, N2⟩ : Grid) P2 [M00, M01, M02, M10, M21] rfl rfl
    (collectScores_cons t200021102 (collectScores_cons v020021102 (collectScores_cons v002021102 (collectScores_cons v000221102 (collectScores_cons v000021122 collectScores_nil))))) rfl

theorem v000021012 : readBoardAux P2 7 (⟨N0, N0, N0, N0, N2, N1, N0, N1, N2⟩ : Grid) P2 = some (ZP, some M00) :=
  readBoardAux_step P2 6 (⟨N0, N0, N0, N0, N2, N1, N0, N1, N2⟩ : Grid) P2 [M00, M01, M02, M10, M20] rfl rfl
    (collectScores_cons t200021012 (collectScores_cons v020021012 (collectScores_cons v002021012 (collectScores_cons v000221012 (collectScores_cons v000021212 collectScores_nil))))) rfl

theorem v000021002 : readBoardAux P2 8 (⟨N0, N0, N0, N0, N2, N1, N0, N0, N2⟩ : Grid) P1 = some (ZP, some M00) :=
  readBoardAux_step P2 7 (⟨N0, N0, N0, N0, N2, N1, N0, N0, N2⟩ : Grid) P1 [M00, M01, M02, M10, M20, M21] rfl rfl
    (collectScores_cons v100021002 (collectScores_cons v010021002 (collectScores_cons v001021002 (collectScores_cons v000121002 (collectScores_cons v000021102 (collectScores_cons v000021012 collectScores_nil)))))) rfl

theorem v000021000 : readBoardAux P2 9 (⟨N0, N0, N0, N0, N2, N1, N0, N0, N0⟩ : Grid) P2 = some (ZP, some M00) :=
  readBoardAux_step P2 8 (⟨N0, N0, N0, N0, N2, N1, N0, N0, N0⟩ : Grid) P2 [M00, M01, M02, M10, M20, M21, M22] rfl rfl
    (collectScores_cons v200021000 (collectScores_cons v020021000 (collectScores_cons v002021000 (collectScores_cons v000221000 (collectScores_cons v000021200 (collectScores_cons v000021020 (collectScores_cons v000021002 collectScores_nil))))))) rfl

theorem v000022112 : readBoardAux P2 6 (⟨N0, N0, N0, N0, N2, N2, N1, N1, N2⟩ : Grid) P1 = some (ZP, some M00) :=
  readBoardAux_step P2 5 (⟨N0, N0, N0, N0, N2, N2, N1, N1, N2⟩ : Grid) P1 [M00, M01, M02, M10] rfl rfl
    (collectScores_cons v100022112 (collectScores_cons v010022112 (collectScores_cons v001022112 (collectScores_cons v000122112 collectScores_nil)))) rfl

theorem v000022110 : readBoardAux P2 7 (⟨N0, N0, N0, N0, N2, N2, N1, N1, N0⟩ : Grid) P2 = some (ZP, some M10) :=
  readBoardAux_step P2 6 (⟨N0, N0, N0, N0, N2, N2, N1, N1, N0⟩ : Grid) P2 [M00, M01, M02, M10, M22] rfl rfl
    (collectScores_cons v200022110 (collectScores_cons v020022110 (collectScores_cons v002022110 (collectScores_cons t000222110 (collectScores_cons v000022112 collectScores_nil))))) rfl

theorem v000022121 : readBoardAux P2 6 (⟨N0, N0, N0, N0, N2, N2, N1, N2, N1⟩ : Grid) P1 = some (ZP, some M00) :=
  readBoardAux_step P2 5 (⟨N0, N0, N0, N0, N2, N2, N1, N2, N1⟩ : Grid) P1 [M00, M01, M02, M10] rfl rfl
    (collectScores_cons v100022121 (collectScores_cons v010022121 (collectScores_cons v001022121 (collectScores_cons v000122121 collectScores_nil)))) rfl

theorem v000022101 : readBoardAux P2 7 (⟨N0, N0, N0, N0, N2, N2, N1, N0, N1⟩ : Grid) P2 = some (ZP, some M10) :=
  readBoardAux_step P2 6 (⟨N0, N0, N0, N0, N2, N2, N1, N0, N1⟩ : Grid) P2 [M00, M01, M02, M10, M21] rfl rfl
    (collectScores_cons v200022101 (collectScores_cons v020022101 (collectScores_cons v002022101 (collectScores_cons t000222101 (collectScores_cons v000022121 collectScores_nil))))) rfl

theorem v000022100 : readBoardAux P2 8 (⟨N0, N0, N0, N0, N2, N2, N1, N0, N0⟩ : Grid) P1 = some (Z0, some M10) :=
  readBoardAux_step P2 7 (⟨N0, N0, N0, N0, N2, N2, N1, N0, N0⟩ : Grid) P1 [M00, M01, M02, M10, M21, M22] rfl rfl
    (collectScores_cons v100022100 (collectScores_cons v010022100 (collectScores_cons v001022100 (collectScores_cons v000122100 (collectScores_cons v000022110 (collectScores_cons v000022101 collectScores_nil)))))) rfl

theorem v000020121 : readBoardAux P2 7 (⟨N0, N0, N0, N0, N2, N0, N1, N2, N1⟩ : Grid) P2 = some (ZP, some M01) :=
  readBoardAux_step P2 6 (⟨N0, N0, N0, N0, N2, N0, N1, N2, N1⟩ : Grid) P2 [M00, M01, M02, M10, M12] rfl rfl
    (collectScores_cons v200020121 (collectScores_cons t020020121 (collectScores_cons v002020121 (collectScores_cons v000220121 (collectScores_cons v000022121 collectScores_nil))))) rfl

theorem v000020120 : readBoardAux P2 8 (⟨N0, N0, N0, N0, N2, N0, N1, N2, N0⟩ : Grid) P1 = some (Z0, some M01) :=
  readBoardAux_step P2 7 (⟨N0, N0, N0, N0, N2, N0, N1, N2, N0⟩ : Grid) P1 [M00, M01, M02, M10, M12, M22] rfl rfl
    (collectScores_cons v100020120 (collectScores_cons v010020120 (collectScores_cons v001020120 (collectScores_cons v000120120 (collectScores_cons v000021120 (collectScores_cons v000020121 collectScores_nil)))))) rfl

theorem v000020112 : readBoardAux P2 7 (⟨N0, N0, N0, N0, N2, N0, N1, N1, N2⟩ : Grid) P2 = some (ZP, some M00) :=
  readBoardAux_step P2 6 (⟨N0, N0, N0, N0, N2, N0, N1, N1, N2⟩ : Grid) P2 [M00, M01, M02, M10, M12] rfl rfl
    (collectScores_cons t200020112 (collectScores_cons v020020112 (collectScores_cons v002020112 (collectScores_cons v000220112 (collectScores_cons v000022112 collectScores_nil))))) rfl

theorem v000020102 : readBoardAux P2 8 (⟨N0, N0, N0, N0, N2, N0, N1, N0, N2⟩ : Grid) P1 = some (Z0, some M00) :=
  readBoardAux_step P2 7 (⟨N0, N0, N0, N0, N2, N0, N1, N0, N2⟩ : Grid) P1 [M00, M01, M02, M10, M12, M21] rfl rfl
    (collectScores_cons v100020102 (collectScores_cons v010020102 (collectScores_cons v001020102 (collectScores_cons v000120102 (collectScores_cons v000021102 (collectScores_cons v000020112 collectScores_nil)))))) rfl

theorem v000020100 : readBoardAux P2 9 (⟨N0, N0, N0, N0, N2, N0, N1, N0, N0⟩ : Grid) P2 = some (Z0, some M00) :=
  readBoardAux_step P2 8 (⟨N0, N0, N0, N0, N2, N0, N1, N0, N0⟩ : Grid) P2 [M00, M01, M02, M10, M12, M21, M22] rfl rfl
    (collectScores_cons v200020100 (collectScores_cons v020020100 (collectScores_cons v002020100 (collectScores_cons v000220100 (collectScores_cons v000022100 (collectScores_cons v000020120 (collectScores_cons v000020102 collectScores_nil))))))) rfl

theorem v000022211 : readBoardAux P2 6 (⟨N0, N0, N0, N0, N2, N2, N2, N1, N1⟩ : Grid) P1 = some (ZP, some M00) :=
  readBoardAux_step P2 5 (⟨N0, N0, N0, N0, N2, N2, N2, N1, N1⟩ : Grid) P1 [M00, M01, M02, M10] rfl rfl
    (collectScores_cons v100022211 (collectScores_cons v010022211 (collectScores_cons v001022211 (collectScores_cons v000122211 collectScores_nil)))) rfl

theorem v000022011 : readBoardAux P2 7 (⟨N0, N0, N0, N0, N2, N2, N0, N1, N1⟩ : Grid) P2 = some (ZP, some M10) :=
  readBoardAux_step P2 6 (⟨N0, N0, N0, N0, N2, N2, N0, N1, N1⟩ : Grid) P2 [M00, M01, M02, M10, M20] rfl rfl
    (collectScores_cons v200022011 (collectScores_cons v020022011 (collectScores_cons v002022011 (collectScores_cons t000222011 (collectScores_cons v000022211 collectScores_nil))))) rfl

theorem v000022010 : readBoardAux P2 8 (⟨N0, N0, N0, N0, N2, N2, N0, N1, N0⟩ : Grid) P1 = some (ZP, some M00) :=
  readBoardAux_step P2 7 (⟨N0, N0, N0, N0, N2, N2, N0, N1, N0⟩ : Grid) P1 [M00, M01, M02, M10, M20, M22] rfl rfl
    (collectScores_cons v100022010 (collectScores_cons v010022010 (collectScores_cons v001022010 (collectScores_cons v000122010 (collectScores_cons v000022110 (collectScores_cons v000022011 collectScores_nil)))))) rfl

theorem v000020211 : readBoardAux P2 7 (⟨N0, N0, N0, N0, N2, N0, N2, N1, N1⟩ : Grid) P2 = some (ZP, some M00) :=
  readBoardAux_step P2 6 (⟨N0, N0, N0, N0, N2, N0, N2, N1, N1⟩ : Grid) P2 [M00, M01, M02, M10, M12] rfl rfl
    (collectScores_cons v200020211 (collectScores_cons v020020211 (collectScores_cons t002020211 (collectScores_cons v000220211 (collectScores_cons v000022211 collectScores_nil))))) rfl

theorem v000020210 : readBoardAux P2 8 (⟨N0, N0, N0, N0, N2, N0, N2, N1, N0⟩ : Grid) P1 = some (ZP, some M00) :=
  readBoardAux_step P2 7 (⟨N0, N0, N0, N0, N2, N0, N2, N1, N0⟩ : Grid) P1 [M00, M01, M02, M10, M12, M22] rfl rfl
    (collectScores_cons v100020210 (collectScores_cons v010020210 (collectScores_cons v001020210 (collectScores_cons v000120210 (collectScores_cons v000021210 (collectScores_cons v000020211 collectScores_nil)))))) rfl

theorem v000020012 : readBoardAux P2 8 (⟨N0, N0, N0, N0, N2, N0, N0, N1, N2⟩ : Grid) P1 = some (ZP, some M00) :=
  readBoardAux_step P2 7 (⟨N0, N0, N0, N0, N2, N0, N0, N1, N2⟩ : Grid) P1 [M00, M01, M02, M10, M12, M20] rfl rfl
    (collectScores_cons v100020012 (collectScores_cons v010020012 (collectScores_cons v001020012 (collectScores_cons v000120012 (collectScores_cons v000021012 (collectScores_cons v000020112 collectScores_nil)))))) rfl

theorem v000020010 : readBoardAux P2 9 (⟨N0, N0, N0, N0, N2, N0, N0, N1, N0⟩ : Grid) P2 = some (ZP, some M00) :=
  readBoardAux_step P2 8 (⟨N0, N0, N0, N0, N2, N0, N0, N1, N0⟩ : Grid) P2 [M00, M01, M02, M10, M12, M20, M22] rfl rfl
    (collectScores_cons v200020010 (collectScores_cons v020020010 (collectScores_cons v002020010 (collectScores_cons v000220010 (collectScores_cons v000022010 (collectScores_cons v000020210 (collectScores_cons v000020012 collectScores_nil))))))) rfl

theorem v000022001 : readBoardAux P2 8 (⟨N0, N0, N0, N0, N2, N2, N0, N0, N1⟩ : Grid) P1 = some (Z0, some M10) :=
  readBoardAux_step P2 7 (⟨N0, N0, N0, N0, N2, N2, N0, N0, N1⟩ : Grid) P1 [M00, M01, M02, M10, M20, M21] rfl rfl
    (collectScores_cons v100022001 (collectScores_cons v010022001 (collectScores_cons v001022001 (collectScores_cons v000122001 (collectScores_cons v000022101 (collectScores_cons v000022011 collectScores_nil)))))) rfl

theorem v000020201 : readBoardAux P2 8 (⟨N0, N0, N0, N0, N2, N0, N2, N0, N1⟩ : Grid) P1 = some (Z0, some M02) :=
  readBoardAux_step P2 7 (⟨N0, N0, N0, N0, N2, N0, N2, N0, N1⟩ : Grid) P1 [M00, M01, M02, M10, M12, M21] rfl rfl
    (collectScores_cons v100020201 (collectScores_cons v010020201 (collectScores_cons v001020201 (collectScores_cons v000120201 (collectScores_cons v000021201 (collectScores_cons v000020211 collectScores_nil)))))) rfl

theorem v000020021 : readBoardAux P2 8 (⟨N0, N0, N0, N0, N2, N0, N0, N2, N1⟩ : Grid) P1 = some (Z0, some M01) :=
  readBoardAux_step P2 7 (⟨N0, N0, N0, N0, N2, N0, N0, N2, N1⟩ : Grid) P1 [M00, M01, M02, M10, M12, M20] rfl rfl
    (collectScores_cons v100020021 (collectScores_cons v010020021 (collectScores_cons v001020021 (collectScores_cons v000120021 (collectScores_cons v000021021 (collectScores_cons v000020121 collectScores_nil)))))) rfl

theorem v000020001 : readBoardAux P2 9 (⟨N0, N0, N0, N0, N2, N0, N0, N0, N1⟩ : Grid) P2 = some (Z0, some M00) :=
  readBoardAux_step P2 8 (⟨N0, N0, N0, N0, N2, N0, N0, N0, N1⟩ : Grid) P2 [M00, M01, M02, M10, M12, M20, M21] rfl rfl
    (collectScores_cons v200020001 (collectScores_cons v020020001 (collectScores_cons v002020001 (collectScores_cons v000220001 (collectScores_cons v000022001 (collectScores_cons v000020201 (collectScores_cons v000020021 collectScores_nil))))))) rfl

theorem v000020000 : readBoardAux P2 10 (⟨N0, N0, N0, N0, N2, N0, N0, N0, N0⟩ : Grid) P1 = some (Z0, some M00) :=
  readBoardAux_step P2 9 (⟨N0, N0, N0, N0, N2, N0, N0, N0, N0⟩ : Grid) P1 [M00, M01, M02, M10, M12, M20, M21, M22] rfl rfl
    (collectScores_cons v100020000 (collectScores_cons v010020000 (collectScores_cons v001020000 (collectScores_cons v000120000 (collectScores_cons v000021000 (collectScores_cons v000020100 (collectScores_cons v000020010 (collectScores_cons v000020001 collectScores_nil)))))))) rfl

theorem t111002220 : readBoardAux P2 5 (⟨N1, N1, N1, N0, N0, N2, N2, N2, N0⟩ : Grid) P2 = some (ZM, none) :=
  rfl

theorem t110102222 : readBoardAux P2 4 (⟨N1, N1, N0, N1, N0, N2, N2, N2, N2⟩ : Grid) P1 = some (ZP, none) :=
  rfl

theorem v110102220 : readBoardAux P2 5 (⟨N1, N1, N0, N1, N0, N2, N2, N2, N0⟩ : Grid) P2 = some (ZP, some M02) :=
  readBoardAux_step P2 4 (⟨N1, N1, N0, N1, N0, N2, N2, N2, N0⟩ : Grid) P2 [M02, M11, M22] rfl rfl
    (collectScores_cons v112102220 (collectScores_cons v110122220 (collectScores_cons t110102222 collectScores_nil))) rfl

theorem t110012222 : readBoardAux P2 4 (⟨N1, N1, N0, N0, N1, N2, N2, N2, N2⟩ : Grid) P1 = some (ZP, none) :=
  rfl

theorem v110012220 : readBoardAux P2 5 (⟨N1, N1, N0, N0, N1, N2, N2, N2, N0⟩ : Grid) P2 = some (ZP, some M22) :=
  readBoardAux_step P2 4 (⟨N1, N1, N0, N0, N1, N2, N2, N2, N0⟩ : Grid) P2 [M02, M10, M22] rfl rfl
    (collectScores_cons v112012220 (collectScores_cons v110212220 (collectScores_cons t110012222 collectScores_nil))) rfl

theorem v110002221 : readBoardAux P2 5 (⟨N1, N1, N0, N0, N0, N2, N2, N2, N1⟩ : Grid) P2 = some (ZM, some M02) :=
  readBoardAux_step P2 4 (⟨N1, N1, N0, N0, N0, N2, N2, N2, N1⟩ : Grid) P2 [M02, M10, M11] rfl rfl
    (collectScores_cons v112002221 (collectScores_cons v110202221 (collectScores_cons v110022221 collectScores_nil))) rfl

theorem v110002220 : readBoardAux P2 6 (⟨N1, N1, N0, N0, N0, N2, N2, N2, N0⟩ : Grid) P1 = some (ZM, some M02) :=
  readBoardAux_step P2 5 (⟨N1, N1, N0, N0, N0, N2, N2, N2, N0⟩ : Grid) P1 [M02, M10, M11, M22] rfl rfl
    (collectScores_cons t111002220 (collectScores_cons v110102220 (collectScores_cons v110012220 (collectScores_cons v110002221 collectScores_nil)))) rfl

theorem t111002202 : readBoardAux P2 5 (⟨N1, N1, N1, N0, N0, N2, N2, N0, N2⟩ : Grid) P2 = some (ZM, none) :=
  rfl

theorem v110102202 : readBoardAux P2 5 (⟨N1, N1, N0, N1, N0, N2, N2, N0, N2⟩ : Grid) P2 = some (ZP, some M02) :=
  readBoardAux_step P2 4 (⟨N1, N1, N0, N1, N0, N2, N2, N0, N2⟩ : Grid) P2 [M02, M11, M21] rfl rfl
    (collectScores_cons t112102202 (collectScores_cons v110122202 (collectScores_cons t110102222 collectScores_nil))) rfl

theorem v110012202 : readBoardAux P2 5 (⟨N1, N1, N0, N0, N1, N2, N2, N0, N2⟩ : Grid) P2 = some (ZP, some M02) :=
  readBoardAux_step P2 4 (⟨N1, N1, N0, N0, N1, N2, N2, N0, N2⟩ : Grid) P2 [M02, M10, M21] rfl rfl
    (collectScores_cons t112012202 (collectScores_cons v110212202 (collectScores_cons t110012222 collectScores_nil))) rfl

theorem v110002212 : readBoardAux P2 5 (⟨N1, N1, N0, N0, N0, N2, N2, N1, N2⟩ : Grid) P2 = some (ZP, some M02) :=
  readBoardAux_step P2 4 (⟨N1, N1, N0, N0, N0, N2, N2, N1, N2⟩ : Grid) P2 [M02, M10, M11] rfl rfl
    (collectScores_cons t112002212 (collectScores_cons v110202212 (collectScores_cons v110022212 collectScores_nil))) rfl

theorem v110002202 : readBoardAux P2 6 (⟨N1, N1, N0, N0, N0, N2, N2, N0, N2⟩ : Grid) P1 = some (ZM, some M02) :=
  readBoardAux_step P2 5 (⟨N1, N1, N0, N0, N0, N2, N2, N0, N2⟩ : Grid) P1 [M02, M10, M11, M21] rfl rfl
    (collectScores_cons t111002202 (collectScores_cons v110102202 (collectScores_cons v110012202 (collectScores_cons v110002212 collectScores_nil)))) rfl

theorem v110002200 : readBoardAux P2 7 (⟨N1, N1, N0, N0, N0, N2, N2, N0, N0⟩ : Grid) P2 = some (ZP, some M02) :=
  readBoardAux_step P2 6 (⟨N1, N1, N0, N0, N0, N2, N2, N0, N0⟩ : Grid) P2 [M02, M10, M11, M21, M22] rfl rfl
    (collectScores_cons v112002200 (collectScores_cons v110202200 (collectScores_cons v110022200 (collectScores_cons v110002220 (collectScores_cons v110002202 collectScores_nil))))) rfl

theorem t101102222 : readBoardAux P2 4 (⟨N1, N0, N1, N1, N0, N2, N2, N2, N2⟩ : Grid) P1 = some (ZP, none) :=
  rfl

theorem v101102220 : readBoardAux P2 5 (⟨N1, N0, N1, N1, N0, N2, N2, N2, N0⟩ : Grid) P2 = some (ZP, some M01) :=
  readBoardAux_step P2 4 (⟨N1, N0, N1, N1, N0, N2, N2, N2, N0⟩ : Grid) P2 [M01, M11, M22] rfl rfl
    (collectScores_cons v121102220 (collectScores_cons v101122220 (collectScores_cons t101102222 collectScores_nil))) rfl

theorem t101012222 : readBoardAux P2 4 (⟨N1, N0, N1, N0, N1, N2, N2, N2, N2⟩ : Grid) P1 = some (ZP, none) :=
  rfl

theorem v101012220 : readBoardAux P2 5 (⟨N1, N0, N1, N0, N1, N2, N2, N2, N0⟩ : Grid) P2 = some (ZP, some M22) :=
  readBoardAux_step P2 4 (⟨N1, N0, N1, N0, N1, N2, N2, N2, N0⟩ : Grid) P2 [M01, M10, M22] rfl rfl
    (collectScores_cons v121012220 (collectScores_cons v101212220 (collectScores_cons t101012222 collectScores_nil))) rfl

theorem v101002221 : readBoardAux P2 5 (⟨N1, N0, N1, N0, N0, N2, N2, N2, N1⟩ : Grid) P2 = some (ZM, some M01) :=
  readBoardAux_step P2 4 (⟨N1, N0, N1, N0, N0, N2, N2, N2, N1⟩ : Grid) P2 [M01, M10, M11] rfl rfl
    (collectScores_cons v121002221 (collectScores_cons v101202221 (collectScores_cons v101022221 collectScores_nil))) rfl

theorem v101002220 : readBoardAux P2 6 (⟨N1, N0, N1, N0, N0, N2, N2, N2, N0⟩ : Grid) P1 = some (ZM, some M01) :=
  readBoardAux_step P2 5 (⟨N1, N0, N1, N0, N0, N2, N2, N2, N0⟩ : Grid) P1 [M01, M10, M11, M22] rfl rfl
    (collectScores_cons t111002220 (collectScores_cons v101102220 (collectScores_cons v101012220 (collectScores_cons v101002221 collectScores_nil)))) rfl

theorem v101102202 : readBoardAux P2 5 (⟨N1, N0, N1, N1, N0, N2, N2, N0, N2⟩ : Grid) P2 = some (ZP, some M21) :=
  readBoardAux_step P2 4 (⟨N1, N0, N1, N1, N0, N2, N2, N0, N2⟩ : Grid) P2 [M01, M11, M21] rfl rfl
    (collectScores_cons v121102202 (collectScores_cons v101122202 (collectScores_cons t101102222 collectScores_nil))) rfl

theorem v101012202 : readBoardAux P2 5 (⟨N1, N0, N1, N0, N1, N2, N2, N0, N2⟩ : Grid) P2 = some (ZP, some M21) :=
  readBoardAux_step P2 4 (⟨N1, N0, N1, N0, N1, N2, N2, N0, N2⟩ : Grid) P2 [M01, M10, M21] rfl rfl
    (collectScores_cons v121012202 (collectScores_cons v101212202 (collectScores_cons t101012222 collectScores_nil))) rfl

theorem v101002212 : readBoardAux P2 5 (⟨N1, N0, N1, N0, N0, N2, N2, N1, N2⟩ : Grid) P2 = some (Z0, some M01) :=
  readBoardAux_step P2 4 (⟨N1, N0, N1, N0, N0, N2, N2, N1, N2⟩ : Grid) P2 [M01, M10, M11] rfl rfl
    (collectScores_cons v121002212 (collectScores_cons v101202212 (collectScores_cons v101022212 collectScores_nil))) rfl

theorem v101002202 : readBoardAux P2 6 (⟨N1, N0, N1, N0, N0, N2, N2, N0, N2⟩ : Grid) P1 = some (ZM, some M01) :=
  readBoardAux_step P2 5 (⟨N1, N0, N1, N0, N0, N2, N2, N0, N2⟩ : Grid) P1 [M01, M10, M11, M21] rfl rfl
    (collectScores_cons t111002202 (collectScores_cons v101102202 (collectScores_cons v101012202 (collectScores_cons v101002212 collectScores_nil)))) rfl

theorem v101002200 : readBoardAux P2 7 (⟨N1, N0, N1, N0, N0, N2, N2, N0, N0⟩ : Grid) P2 = some (Z0, some M01) :=
  readBoardAux_step P2 6 (⟨N1, N0, N1, N0, N0, N2, N2, N0, N0⟩ : Grid) P2 [M01, M10, M11, M21, M22] rfl rfl
    (collectScores_cons v121002200 (collectScores_cons v101202200 (collectScores_cons v101022200 (collectScores_cons v101002220 (collectScores_cons v101002202 collectScores_nil))))) rfl

theorem t100112222 : readBoardAux P2 4 (⟨N1, N0, N0, N1, N1, N2, N2, N2, N2⟩ : Grid) P1 = some (ZP, none) :=
  rfl

theorem v100112220 : readBoardAux P2 5 (⟨N1, N0, N0, N1, N1, N2, N2, N2, N0⟩ : Grid) P2 = some (ZP, some M22) :=
  readBoardAux_step P2 4 (⟨N1, N0, N0, N1, N1, N2, N2, N2, N0⟩ : Grid) P2 [M01, M02, M22] rfl rfl
    (collectScores_cons v120112220 (collectScores_cons v102112220 (collectScores_cons t100112222 collectScores_nil))) rfl

theorem v100102221 : readBoardAux P2 5 (⟨N1, N0, N0, N1, N0, N2, N2, N2, N1⟩ : Grid) P2 = some (ZP, some M11) :=
  readBoardAux_step P2 4 (⟨N1, N0, N0, N1, N0, N2, N2, N2, N1⟩ : Grid) P2 [M01, M02, M11] rfl rfl
    (collectScores_cons v120102221 (collectScores_cons v102102221 (collectScores_cons v100122221 collectScores_nil))) rfl

theorem v100102220 : readBoardAux P2 6 (⟨N1, N0, N0, N1, N0, N2, N2, N2, N0⟩ : Grid) P1 = some (ZP, some M01) :=
  readBoardAux_step P2 5 (⟨N1, N0, N0, N1, N0, N2, N2, N2, N0⟩ : Grid) P1 [M01, M02, M11, M22] rfl rfl
    (collectScores_cons v110102220 (collectScores_cons v101102220 (collectScores_cons v100112220 (collectScores_cons v100102221 collectScores_nil)))) rfl

theorem v100112202 : readBoardAux P2 5 (⟨N1, N0, N0, N1, N1, N2, N2, N0, N2⟩ : Grid) P2 = some (ZP, some M01) :=
  readBoardAux_step P2 4 (⟨N1, N0, N0, N1, N1, N2, N2, N0, N2⟩ : Grid) P2 [M01, M02, M21] rfl rfl
    (collectScores_cons v120112202 (collectScores_cons t102112202 (collectScores_cons t100112222 collectScores_nil))) rfl

theorem v100102212 : readBoardAux P2 5 (⟨N1, N0, N0, N1, N0, N2, N2, N1, N2⟩ : Grid) P2 = some (ZP, some M02) :=
  readBoardAux_step P2 4 (⟨N1, N0, N0, N1, N0, N2, N2, N1, N2⟩ : Grid) P2 [M01, M02, M11] rfl rfl
    (collectScores_cons v120102212 (collectScores_cons t102102212 (collectScores_cons v100122212 collectScores_nil))) rfl

theorem v100102202 : readBoardAux P2 6 (⟨N1, N0, N0, N1, N0, N2, N2, N0, N2⟩ : Grid) P1 = some (ZP, some M01) :=
  readBoardAux_step P2 5 (⟨N1, N0, N0, N1, N0, N2, N2, N0, N2⟩ : Grid) P1 [M01, M02, M11, M21] rfl rfl
    (collectScores_cons v110102202 (collectScores_cons v101102202 (collectScores_cons v100112202 (collectScores_cons v100102212 collectScores_nil)))) rfl

theorem v100102200 : readBoardAux P2 7 (⟨N1, N0, N0, N1, N0, N2, N2, N0, N0⟩ : Grid) P2 = some (ZP, some M01) :=
  readBoardAux_step P2 6 (⟨N1, N0, N0, N1, N0, N2, N2, N0, N0⟩ : Grid) P2 [M01, M02, M11, M21, M22] rfl rfl
    (collectScores_cons v120102200 (collectScores_cons v102102200 (collectScores_cons v100122200 (collectScores_cons v100102220 (collectScores_cons v100102202 collectScores_nil))))) rfl

theorem t100012221 : readBoardAux P2 5 (⟨N1, N0, N0, N0, N1, N2, N2, N2, N1⟩ : Grid) P2 = some (ZM, none) :=
  rfl

theorem v100012220 : readBoardAux P2 6 (⟨N1, N0, N0, N0, N1, N2, N2, N2, N0⟩ : Grid) P1 = some (ZM, some M22) :=
  readBoardAux_step P2 5 (⟨N1, N0, N0, N0, N1, N2, N2, N2, N0⟩ : Grid) P1 [M01, M02, M10, M22] rfl rfl
    (collectScores_cons v110012220 (collectScores_cons v101012220 (collectScores_cons v100112220 (collectScores_cons t100012221 collectScores_nil)))) rfl

theorem v100012212 : readBoardAux P2 5 (⟨N1, N0, N0, N0, N1, N2, N2, N1, N2⟩ : Grid) P2 = some (ZP, some M02) :=
  readBoardAux_step P2 4 (⟨N1, N0, N0, N0, N1, N2, N2, N1, N2⟩ : Grid) P2 [M01, M02, M10] rfl rfl
    (collectScores_cons v120012212 (collectScores_cons t102012212 (collectScores_cons v100212212 collectScores_nil))) rfl

theorem v100012202 : readBoardAux P2 6 (⟨N1, N0, N0, N0, N1, N2, N2, N0, N2⟩ : Grid) P1 = some (ZP, some M01) :=
  readBoardAux_step P2 5 (⟨N1, N0, N0, N0, N1, N2, N2, N0, N2⟩ : Grid) P1 [M01, M02, M10, M21] rfl rfl
    (collectScores_cons v110012202 (collectScores_cons v101012202 (collectScores_cons v100112202 (collectScores_cons v100012212 collectScores_nil)))) rfl

theorem v100012200 : readBoardAux P2 7 (⟨N1, N0, N0, N0, N1, N2, N2, N0, N0⟩ : Grid) P2 = some (ZP, some M22) :=
  readBoardAux_step P2 6 (⟨N1, N0, N0, N0, N1, N2, N2, N0, N0⟩ : Grid) P2 [M01, M02, M10, M21, M22] rfl rfl
    (collectScores_cons v120012200 (collectScores_cons v102012200 (collectScores_cons v100212200 (collectScores_cons v100012220 (collectScores_cons v100012202 collectScores_nil))))) rfl

theorem v100002212 : readBoardAux P2 6 (⟨N1, N0, N0, N0, N0, N2, N2, N1, N2⟩ : Grid) P1 = some (Z0, some M02) :=
  readBoardAux_step P2 5 (⟨N1, N0, N0, N0, N0, N2, N2, N1, N2⟩ : Grid) P1 [M01, M02, M10, M11] rfl rfl
    (collectScores_cons v110002212 (collectScores_cons v101002212 (collectScores_cons v100102212 (collectScores_cons v100012212 collectScores_nil)))) rfl

theorem v100002210 : readBoardAux P2 7 (⟨N1, N0, N0, N0, N0, N2, N2, N1, N0⟩ : Grid) P2 = some (ZP, some M02) :=
  readBoardAux_step P2 6 (⟨N1, N0, N0, N0, N0, N2, N2, N1, N0⟩ : Grid) P2 [M01, M02, M10, M11, M22] rfl rfl
    (collectScores_cons v120002210 (collectScores_cons v102002210 (collectScores_cons v100202210 (collectScores_cons v100022210 (collectScores_cons v100002212 collectScores_nil))))) rfl

theorem v100002221 : readBoardAux P2 6 (⟨N1, N0, N0, N0, N0, N2, N2, N2, N1⟩ : Grid) P1 = some (ZM, some M01) :=
  readBoardAux_step P2 5 (⟨N1, N0, N0, N0, N0, N2, N2, N2, N1⟩ : Grid) P1 [M01, M02, M10, M11] rfl rfl
    (collectScores_cons v110002221 (collectScores_cons v101002221 (collectScores_cons v100102221 (collectScores_cons t100012221 collectScores_nil)))) rfl

theorem v100002201 : readBoardAux P2 7 (⟨N1, N0, N0, N0, N0, N2, N2, N0, N1⟩ : Grid) P2 = some (ZP, some M11) :=
  readBoardAux_step P2 6 (⟨N1, N0, N0, N0, N0, N2, N2, N0, N1⟩ : Grid) P2 [M01, M02, M10, M11, M21] rfl rfl
    (collectScores_cons v120002201 (collectScores_cons v102002201 (collectScores_cons v100202201 (collectScores_cons v100022201 (collectScores_cons v100002221 collectScores_nil))))) rfl

theorem v100002200 : readBoardAux P2 8 (⟨N1, N0, N0, N0, N0, N2, N2, N0, N0⟩ : Grid) P1 = some (Z0, some M02) :=
  readBoardAux_step P2 7 (⟨N1, N0, N0, N0, N0, N2, N2, N0, N0⟩ : Grid) P1 [M01, M02, M10, M11, M21, M22] rfl rfl
    (collectScores_cons v110002200 (collectScores_cons v101002200 (collectScores_cons v100102200 (collectScores_cons v100012200 (collectScores_cons v100002210 (collectScores_cons v100002201 collectScores_nil)))))) rfl

theorem t111002022 : readBoardAux P2 5 (⟨N1, N1, N1, N0, N0, N2, N0, N2, N2⟩ : Grid) P2 = some (ZM, none) :=
  rfl

theorem v110102022 : readBoardAux P2 5 (⟨N1, N1, N0, N1, N0, N2, N0, N2, N2⟩ : Grid) P2 = some (ZP, some M02) :=
  readBoardAux_step P2 4 (⟨N1, N1, N0, N1, N0, N2, N0, N2, N2⟩ : Grid) P2 [M02, M11, M20] rfl rfl
    (collectScores_cons t112102022 (collectScores_cons v110122022 (collectScores_cons t110102222 collectScores_nil))) rfl

theorem v110012022 : readBoardAux P2 5 (⟨N1, N1, N0, N0, N1, N2, N0, N2, N2⟩ : Grid) P2 = some (ZP, some M02) :=
  readBoardAux_step P2 4 (⟨N1, N1, N0, N0, N1, N2, N0, N2, N2⟩ : Grid) P2 [M02, M10, M20] rfl rfl
    (collectScores_cons t112012022 (collectScores_cons v110212022 (collectScores_cons t110012222 collectScores_nil))) rfl

theorem v110002122 : readBoardAux P2 5 (⟨N1, N1, N0, N0, N0, N2, N1, N2, N2⟩ : Grid) P2 = some (ZP, some M02) :=
  readBoardAux_step P2 4 (⟨N1, N1, N0, N0, N0, N2, N1, N2, N2⟩ : Grid) P2 [M02, M10, M11] rfl rfl
    (collectScores_cons t112002122 (collectScores_cons v110202122 (collectScores_cons v110022122 collectScores_nil))) rfl

theorem v110002022 : readBoardAux P2 6 (⟨N1, N1, N0, N0, N0, N2, N0, N2, N2⟩ : Grid) P1 = some (ZM, some M02) :=
  readBoardAux_step P2 5 (⟨N1, N1, N0, N0, N0, N2, N0, N2, N2⟩ : Grid) P1 [M02, M10, M11, M20] rfl rfl
    (collectScores_cons t111002022 (collectScores_cons v110102022 (collectScores_cons v110012022 (collectScores_cons v110002122 collectScores_nil)))) rfl

theorem v110002020 : readBoardAux P2 7 (⟨N1, N1, N0, N0, N0, N2, N0, N2, N0⟩ : Grid) P2 = some (ZP, some M02) :=
  readBoardAux_step P2 6 (⟨N1, N1, N0, N0, N0, N2, N0, N2, N0⟩ : Grid) P2 [M02, M10, M11, M20, M22] rfl rfl
    (collectScores_cons v112002020 (collectScores_cons v110202020 (collectScores_cons v110022020 (collectScores_cons v110002220 (collectScores_cons v110002022 collectScores_nil))))) rfl

theorem v101102022 : readBoardAux P2 5 (⟨N1, N0, N1, N1, N0, N2, N0, N2, N2⟩ : Grid) P2 = some (ZP, some M20) :=
  readBoardAux_step P2 4 (⟨N1, N0, N1, N1, N0, N2, N0, N2, N2⟩ : Grid) P2 [M01, M11, M20] rfl rfl
    (collectScores_cons v121102022 (collectScores_cons v101122022 (collectScores_cons t101102222 collectScores_nil))) rfl

theorem v101012022 : readBoardAux P2 5 (⟨N1, N0, N1, N0, N1, N2, N0, N2, N2⟩ : Grid) P2 = some (ZP, some M20) :=
  readBoardAux_step P2 4 (⟨N1, N0, N1, N0, N1, N2, N0, N2, N2⟩ : Grid) P2 [M01, M10, M20] rfl rfl
    (collectScores_cons v121012022 (collectScores_cons v101212022 (collectScores_cons t101012222 collectScores_nil))) rfl

theorem v101002122 : readBoardAux P2 5 (⟨N1, N0, N1, N0, N0, N2, N1, N2, N2⟩ : Grid) P2 = some (ZM, some M01) :=
  readBoardAux_step P2 4 (⟨N1, N0, N1, N0, N0, N2, N1, N2, N2⟩ : Grid) P2 [M01, M10, M11] rfl rfl
    (collectScores_cons v121002122 (collectScores_cons v101202122 (collectScores_cons v101022122 collectScores_nil))) rfl

theorem v101002022 : readBoardAux P2 6 (⟨N1, N0, N1, N0, N0, N2, N0, N2, N2⟩ : Grid) P1 = some (ZM, some M01) :=
  readBoardAux_step P2 5 (⟨N1, N0, N1, N0, N0, N2, N0, N2, N2⟩ : Grid) P1 [M01, M10, M11, M20] rfl rfl
    (collectScores_cons t111002022 (collectScores_cons v101102022 (collectScores_cons v101012022 (collectScores_cons v101002122 collectScores_nil)))) rfl

theorem v101002020 : readBoardAux P2 7 (⟨N1, N0, N1, N0, N0, N2, N0, N2, N0⟩ : Grid) P2 = some (ZM, some M01) :=
  readBoardAux_step P2 6 (⟨N1, N0, N1, N0, N0, N2, N0, N2, N0⟩ : Grid) P2 [M01, M10, M11, M20, M22] rfl rfl
    (collectScores_cons v121002020 (collectScores_cons v101202020 (collectScores_cons v101022020 (collectScores_cons v101002220 (collectScores_cons v101002022 collectScores_nil))))) rfl

theorem v100112022 : readBoardAux P2 5 (⟨N1, N0, N0, N1, N1, N2, N0, N2, N2⟩ : Grid) P2 = some (ZP, some M02) :=
  readBoardAux_step P2 4 (⟨N1, N0, N0, N1, N1, N2, N0, N2, N2⟩ : Grid) P2 [M01, M02, M20] rfl rfl
    (collectScores_cons v120112022 (collectScores_cons t102112022 (collectScores_cons t100112222 collectScores_nil))) rfl

theorem t100102122 : readBoardAux P2 5 (⟨N1, N0, N0, N1, N0, N2, N1, N2, N2⟩ : Grid) P2 = some (ZM, none) :=
  rfl

theorem v100102022 : readBoardAux P2 6 (⟨N1, N0, N0, N1, N0, N2, N0, N2, N2⟩ : Grid) P1 = some (ZM, some M20) :=
  readBoardAux_step P2 5 (⟨N1, N0, N0, N1, N0, N2, N0, N2, N2⟩ : Grid) P1 [M01, M02, M11, M20] rfl rfl
    (collectScores_cons v110102022 (collectScores_cons v101102022 (collectScores_cons v100112022 (collectScores_cons t100102122 collectScores_nil)))) rfl

theorem v100102020 : readBoardAux P2 7 (⟨N1, N0, N0, N1, N0, N2, N0, N2, N0⟩ : Grid) P2 = some (ZP, some M20) :=
  readBoardAux_step P2 6 (⟨N1, N0, N0, N1, N0, N2, N0, N2, N0⟩ : Grid) P2 [M01, M02, M11, M20, M22] rfl rfl
    (collectScores_cons v120102020 (collectScores_cons v102102020 (collectScores_cons v100122020 (collectScores_cons v100102220 (collectScores_cons v100102022 collectScores_nil))))) rfl

theorem v100012122 : readBoardAux P2 5 (⟨N1, N0, N0, N0, N1, N2, N1, N2, N2⟩ : Grid) P2 = some (ZP, some M02) :=
  readBoardAux_step P2 4 (⟨N1, N0, N0, N0, N1, N2, N1, N2, N2⟩ : Grid) P2 [M01, M02, M10] rfl rfl
    (collectScores_cons v120012122 (collectScores_cons t102012122 (collectScores_cons v100212122 collectScores_nil))) rfl

theorem v100012022 : readBoardAux P2 6 (⟨N1, N0, N0, N0, N1, N2, N0, N2, N2⟩ : Grid) P1 = some (ZP, some M01) :=
  readBoardAux_step P2 5 (⟨N1, N0, N0, N0, N1, N2, N0, N2, N2⟩ : Grid) P1 [M01, M02, M10, M20] rfl rfl
    (collectScores_cons v110012022 (collectScores_cons v101012022 (collectScores_cons v100112022 (collectScores_cons v100012122 collectScores_nil)))) rfl

theorem v100012020 : readBoardAux P2 7 (⟨N1, N0, N0, N0, N1, N2, N0, N2, N0⟩ : Grid) P2 = some (ZP, some M22) :=
  readBoardAux_step P2 6 (⟨N1, N0, N0, N0, N1, N2, N0, N2, N0⟩ : Grid) P2 [M01, M02, M10, M20, M22] rfl rfl
    (collectScores_cons v120012020 (collectScores_cons v102012020 (collectScores_cons v100212020 (collectScores_cons v100012220 (collectScores_cons v100012022 collectScores_nil))))) rfl

theorem v100002122 : readBoardAux P2 6 (⟨N1, N0, N0, N0, N0, N2, N1, N2, N2⟩ : Grid) P1 = some (ZM, some M02) :=
  readBoardAux_step P2 5 (⟨N1, N0, N0, N0, N0, N2, N1, N2, N2⟩ : Grid) P1 [M01, M02, M10, M11] rfl rfl
    (collectScores_cons v110002122 (collectScores_cons v101002122 (collectScores_cons t100102122 (collectScores_cons v100012122 collectScores_nil)))) rfl

theorem v100002120 : readBoardAux P2 7 (⟨N1, N0, N0, N0, N0, N2, N1, N2, N0⟩ : Grid) P2 = some (ZM, some M01) :=
  readBoardAux_step P2 6 (⟨N1, N0, N0, N0, N0, N2, N1, N2, N0⟩ : Grid) P2 [M01, M02, M10, M11, M22] rfl rfl
    (collectScores_cons v120002120 (collectScores_cons v102002120 (collectScores_cons v100202120 (collectScores_cons v100022120 (collectScores_cons v100002122 collectScores_nil))))) rfl

theorem v100002021 : readBoardAux P2 7 (⟨N1, N0, N0, N0, N0, N2, N0, N2, N1⟩ : Grid) P2 = some (ZP, some M11) :=
  readBoardAux_step P2 6 (⟨N1, N0, N0, N0, N0, N2, N0, N2, N1⟩ : Grid) P2 [M01, M02, M10, M11, M20] rfl rfl
    (collectScores_cons v120002021 (collectScores_cons v102002021 (collectScores_cons v100202021 (collectScores_cons v100022021 (collectScores_cons v100002221 collectScores_nil))))) rfl

theorem v100002020 : readBoardAux P2 8 (⟨N1, N0, N0, N0, N0, N2, N0, N2, N0⟩ : Grid) P1 = some (ZM, some M02) :=
  readBoardAux_step P2 7 (⟨N1, N0, N0, N0, N0, N2, N0, N2, N0⟩ : Grid) P1 [M01, M02, M10, M11, M20, M22] rfl rfl
    (collectScores_cons v110002020 (collectScores_cons v101002020 (collectScores_cons v100102020 (collectScores_cons v100012020 (collectScores_cons v100002120 (collectScores_cons v100002021 collectScores_nil)))))) rfl

theorem v110002002 : readBoardAux P2 7 (⟨N1, N1, N0, N0, N0, N2, N0, N0, N2⟩ : Grid) P2 = some (ZP, some M02) :=
  readBoardAux_step P2 6 (⟨N1, N1, N0, N0, N0, N2, N0, N0, N2⟩ : Grid) P2 [M02, M10, M11, M20, M21] rfl rfl
    (collectScores_cons t112002002 (collectScores_cons v110202002 (collectScores_cons v110022002 (collectScores_cons v110002202 (collectScores_cons v110002022 collectScores_nil))))) rfl

theorem v101002002 : readBoardAux P2 7 (⟨N1, N0, N1, N0, N0, N2, N0, N0, N2⟩ : Grid) P2 = some (ZM, some M01) :=
  readBoardAux_step P2 6 (⟨N1, N0, N1, N0, N0, N2, N0, N0, N2⟩ : Grid) P2 [M01, M10, M11, M20, M21] rfl rfl
    (collectScores_cons v121002002 (collectScores_cons v101202002 (collectScores_cons v101022002 (collectScores_cons v101002202 (collectScores_cons v101002022 collectScores_nil))))) rfl

theorem v100102002 : readBoardAux P2 7 (⟨N1, N0, N0, N1, N0, N2, N0, N0, N2⟩ : Grid) P2 = some (ZP, some M02) :=
  readBoardAux_step P2 6 (⟨N1, N0, N0, N1, N0, N2, N0, N0, N2⟩ : Grid) P2 [M01, M02, M11, M20, M21] rfl rfl
    (collectScores_cons v120102002 (collectScores_cons t102102002 (collectScores_cons v100122002 (collectScores_cons v100102202 (collectScores_cons v100102022 collectScores_nil))))) rfl

theorem v100012002 : readBoardAux P2 7 (⟨N1, N0, N0, N0, N1, N2, N0, N0, N2⟩ : Grid) P2 = some (ZP, some M02) :=
  readBoardAux_step P2 6 (⟨N1, N0, N0, N0, N1, N2, N0, N0, N2⟩ : Grid) P2 [M01, M02, M10, M20, M21] rfl rfl
    (collectScores_cons v120012002 (collectScores_cons t102012002 (collectScores_cons v100212002 (collectScores_cons v100012202 (collectScores_cons v100012022 collectScores_nil))))) rfl

theorem v100002102 : readBoardAux P2 7 (⟨N1, N0, N0, N0, N0, N2, N1, N0, N2⟩ : Grid) P2 = some (ZP, some M02) :=
  readBoardAux_step P2 6 (⟨N1, N0, N0, N0, N0, N2, N1, N0, N2⟩ : Grid) P2 [M01, M02, M10, M11, M21] rfl rfl
    (collectScores_cons v120002102 (collectScores_cons t102002102 (collectScores_cons v100202102 (collectScores_cons v100022102 (collectScores_cons v100002122 collectScores_nil))))) rfl

theorem v100002012 : readBoardAux P2 7 (⟨N1, N0, N0, N0, N0, N2, N0, N1, N2⟩ : Grid) P2 = some (ZP, some M02) :=
  readBoardAux_step P2 6 (⟨N1, N0, N0, N0, N0, N2, N0, N1, N2⟩ : Grid) P2 [M01, M02, M10, M11, M20] rfl rfl
    (collectScores_cons v120002012 (collectScores_cons t102002012 (collectScores_cons v100202012 (collectScores_cons v100022012 (collectScores_cons v100002212 collectScores_nil))))) rfl

theorem v100002002 : readBoardAux P2 8 (⟨N1, N0, N0, N0, N0, N2, N0, N0, N2⟩ : Grid) P1 = some (ZM, some M02) :=
  readBoardAux_step P2 7 (⟨N1, N0, N0, N0, N0, N2, N0, N0, N2⟩ : Grid) P1 [M01, M02, M10, M11, M20, M21] rfl rfl
    (collectScores_cons v110002002 (collectScores_cons v101002002 (collectScores_cons v100102002 (collectScores_cons v100012002 (collectScores_cons v100002102 (collectScores_cons v100002012 collectScores_nil)))))) rfl

theorem v100002000 : readBoardAux P2 9 (⟨N1, N0, N0, N0, N0, N2, N0, N0, N0⟩ : Grid) P2 = some (ZP, some M02) :=
  readBoardAux_step P2 8 (⟨N1, N0, N0, N0, N0, N2, N0, N0, N0⟩ : Grid) P2 [M01, M02, M10, M11, M20, M21, M22] rfl rfl
    (collectScores_cons v120002000 (collectScores_cons v102002000 (collectScores_cons v100202000 (collectScores_cons v100022000 (collectScores_cons v100002200 (collectScores_cons v100002020 (collectScores_cons v100002002 collectScores_nil))))))) rfl

theorem t011102222 : readBoardAux P2 4 (⟨N0, N1, N1, N1, N0, N2, N2, N2, N2⟩ : Grid) P1 = some (ZP, none) :=
  rfl

theorem v011102220 : readBoardAux P2 5 (⟨N0, N1, N1, N1, N0, N2, N2, N2, N0⟩ : Grid) P2 = some (ZP, some M22) :=
  readBoardAux_step P2 4 (⟨N0, N1, N1, N1, N0, N2, N2, N2, N0⟩ : Grid) P2 [M00, M11, M22] rfl rfl
    (collectScores_cons v211102220 (collectScores_cons v011122220 (collectScores_cons t011102222 collectScores_nil))) rfl

theorem t011012222 : readBoardAux P2 4 (⟨N0, N1, N1, N0, N1, N2, N2, N2, N2⟩ : Grid) P1 = some (ZP, none) :=
  rfl

theorem v011012220 : readBoardAux P2 5 (⟨N0, N1, N1, N0, N1, N2, N2, N2, N0⟩ : Grid) P2 = some (ZP, some M00) :=
  readBoardAux_step P2 4 (⟨N0, N1, N1, N0, N1, N2, N2, N2, N0⟩ : Grid) P2 [M00, M10, M22] rfl rfl
    (collectScores_cons v211012220 (collectScores_cons v011212220 (collectScores_cons t011012222 collectScores_nil))) rfl

theorem v011002221 : readBoardAux P2 5 (⟨N0, N1, N1, N0, N0, N2, N2, N2, N1⟩ : Grid) P2 = some (Z0, some M00) :=
  readBoardAux_step P2 4 (⟨N0, N1, N1, N0, N0, N2, N2, N2, N1⟩ : Grid) P2 [M00, M10, M11] rfl rfl
    (collectScores_cons v211002221 (collectScores_cons v011202221 (collectScores_cons v011022221 collectScores_nil))) rfl

theorem v011002220 : readBoardAux P2 6 (⟨N0, N1, N1, N0, N0, N2, N2, N2, N0⟩ : Grid) P1 = some (ZM, some M00) :=
  readBoardAux_step P2 5 (⟨N0, N1, N1, N0, N0, N2, N2, N2, N0⟩ : Grid) P1 [M00, M10, M11, M22] rfl rfl
    (collectScores_cons t111002220 (collectScores_cons v011102220 (collectScores_cons v011012220 (collectScores_cons v011002221 collectScores_nil)))) rfl

theorem v011102202 : readBoardAux P2 5 (⟨N0, N1, N1, N1, N0, N2, N2, N0, N2⟩ : Grid) P2 = some (ZP, some M00) :=
  readBoardAux_step P2 4 (⟨N0, N1, N1, N1, N0, N2, N2, N0, N2⟩ : Grid) P2 [M00, M11, M21] rfl rfl
    (collectScores_cons v211102202 (collectScores_cons v011122202 (collectScores_cons t011102222 collectScores_nil))) rfl

theorem v011012202 : readBoardAux P2 5 (⟨N0, N1, N1, N0, N1, N2, N2, N0, N2⟩ : Grid) P2 = some (ZP, some M21) :=
  readBoardAux_step P2 4 (⟨N0, N1, N1, N0, N1, N2, N2, N0, N2⟩ : Grid) P2 [M00, M10, M21] rfl rfl
    (collectScores_cons v211012202 (collectScores_cons v011212202 (collectScores_cons t011012222 collectScores_nil))) rfl

theorem v011002212 : readBoardAux P2 5 (⟨N0, N1, N1, N0, N0, N2, N2, N1, N2⟩ : Grid) P2 = some (ZM, some M00) :=
  readBoardAux_step P2 4 (⟨N0, N1, N1, N0, N0, N2, N2, N1, N2⟩ : Grid) P2 [M00, M10, M11] rfl rfl
    (collectScores_cons v211002212 (collectScores_cons v011202212 (collectScores_cons v011022212 collectScores_nil))) rfl

theorem v011002202 : readBoardAux P2 6 (⟨N0, N1, N1, N0, N0, N2, N2, N0, N2⟩ : Grid) P1 = some (ZM, some M00) :=
  readBoardAux_step P2 5 (⟨N0, N1, N1, N0, N0, N2, N2, N0, N2⟩ : Grid) P1 [M00, M10, M11, M21] rfl rfl
    (collectScores_cons t111002202 (collectScores_cons v011102202 (collectScores_cons v011012202 (collectScores_cons v011002212 collectScores_nil)))) rfl

theorem v011002200 : readBoardAux P2 7 (⟨N0, N1, N1, N0, N0, N2, N2, N0, N0⟩ : Grid) P2 = some (ZP, some M00) :=
  readBoardAux_step P2 6 (⟨N0, N1, N1, N0, N0, N2, N2, N0, N0⟩ : Grid) P2 [M00, M10, M11, M21, M22] rfl rfl
    (collectScores_cons v211002200 (collectScores_cons v011202200 (collectScores_cons v011022200 (collectScores_cons v011002220 (collectScores_cons v011002202 collectScores_nil))))) rfl

theorem t010112222 : readBoardAux P2 4 (⟨N0, N1, N0, N1, N1, N2, N2, N2, N2⟩ : Grid) P1 = some (ZP, none) :=
  rfl

theorem v010112220 : readBoardAux P2 5 (⟨N0, N1, N0, N1, N1, N2, N2, N2, N0⟩ : Grid) P2 = some (ZP, some M22) :=
  readBoardAux_step P2 4 (⟨N0, N1, N0, N1, N1, N2, N2, N2, N0⟩ : Grid) P2 [M00, M02, M22] rfl rfl
    (collectScores_cons v210112220 (collectScores_cons v012112220 (collectScores_cons t010112222 collectScores_nil))) rfl

theorem v010102221 : readBoardAux P2 5 (⟨N0, N1, N0, N1, N0, N2, N2, N2, N1⟩ : Grid) P2 = some (Z0, some M00) :=
  readBoardAux_step P2 4 (⟨N0, N1, N0, N1, N0, N2, N2, N2, N1⟩ : Grid) P2 [M00, M02, M11] rfl rfl
    (collectScores_cons v210102221 (collectScores_cons v012102221 (collectScores_cons v010122221 collectScores_nil))) rfl

theorem v010102220 : readBoardAux P2 6 (⟨N0, N1, N0, N1, N0, N2, N2, N2, N0⟩ : Grid) P1 = some (Z0, some M22) :=
  readBoardAux_step P2 5 (⟨N0, N1, N0, N1, N0, N2, N2, N2, N0⟩ : Grid) P1 [M00, M02, M11, M22] rfl rfl
    (collectScores_cons v110102220 (collectScores_cons v011102220 (collectScores_cons v010112220 (collectScores_cons v010102221 collectScores_nil)))) rfl

theorem v010112202 : readBoardAux P2 5 (⟨N0, N1, N0, N1, N1, N2, N2, N0, N2⟩ : Grid) P2 = some (ZP, some M02) :=
  readBoardAux_step P2 4 (⟨N0, N1, N0, N1, N1, N2, N2, N0, N2⟩ : Grid) P2 [M00, M02, M21] rfl rfl
    (collectScores_cons v210112202 (collectScores_cons t012112202 (collectScores_cons t010112222 collectScores_nil))) rfl

theorem v010102212 : readBoardAux P2 5 (⟨N0, N1, N0, N1, N0, N2, N2, N1, N2⟩ : Grid) P2 = some (ZP, some M02) :=
  readBoardAux_step P2 4 (⟨N0, N1, N0, N1, N0, N2, N2, N1, N2⟩ : Grid) P2 [M00, M02, M11] rfl rfl
    (collectScores_cons v210102212 (collectScores_cons t012102212 (collectScores_cons v010122212 collectScores_nil))) rfl

theorem v010102202 : readBoardAux P2 6 (⟨N0, N1, N0, N1, N0, N2, N2, N0, N2⟩ : Grid) P1 = some (ZP, some M00) :=
  readBoardAux_step P2 5 (⟨N0, N1, N0, N1, N0, N2, N2, N0, N2⟩ : Grid) P1 [M00, M02, M11, M21] rfl rfl
    (collectScores_cons v110102202 (collectScores_cons v011102202 (collectScores_cons v010112202 (collectScores_cons v010102212 collectScores_nil)))) rfl

theorem v010102200 : readBoardAux P2 7 (⟨N0, N1, N0, N1, N0, N2, N2, N0, N0⟩ : Grid) P2 = some (ZP, some M02) :=
  readBoardAux_step P2 6 (⟨N0, N1, N0, N1, N0, N2, N2, N0, N0⟩ : Grid) P2 [M00, M02, M11, M21, M22] rfl rfl
    (collectScores_cons v210102200 (collectScores_cons v012102200 (collectScores_cons v010122200 (collectScores_cons v010102220 (collectScores_cons v010102202 collectScores_nil))))) rfl

theorem v010012221 : readBoardAux P2 5 (⟨N0, N1, N0, N0, N1, N2, N2, N2, N1⟩ : Grid) P2 = some (Z0, some M00) :=
  readBoardAux_step P2 4 (⟨N0, N1, N0, N0, N1, N2, N2, N2, N1⟩ : Grid) P2 [M00, M02, M10] rfl rfl
    (collectScores_cons v210012221 (collectScores_cons v012012221 (collectScores_cons v010212221 collectScores_nil))) rfl

theorem v010012220 : readBoardAux P2 6 (⟨N0, N1, N0, N0, N1, N2, N2, N2, N0⟩ : Grid) P1 = some (Z0, some M22) :=
  readBoardAux_step P2 5 (⟨N0, N1, N0, N0, N1, N2, N2, N2, N0⟩ : Grid) P1 [M00, M02, M10, M22] rfl rfl
    (collectScores_cons v110012220 (collectScores_cons v011012220 (collectScores_cons v010112220 (collectScores_cons v010012221 collectScores_nil)))) rfl

theorem t010012212 : readBoardAux P2 5 (⟨N0, N1, N0, N0, N1, N2, N2, N1, N2⟩ : Grid) P2 = some (ZM, none) :=
  rfl

theorem v010012202 : readBoardAux P2 6 (⟨N0, N1, N0, N0, N1, N2, N2, N0, N2⟩ : Grid) P1 = some (ZM, some M21) :=
  readBoardAux_step P2 5 (⟨N0, N1, N0, N0, N1, N2, N2, N0, N2⟩ : Grid) P1 [M00, M02, M10, M21] rfl rfl
    (collectScores_cons v110012202 (collectScores_cons v011012202 (collectScores_cons v010112202 (collectScores_cons t010012212 collectScores_nil)))) rfl

theorem v010012200 : readBoardAux P2 7 (⟨N0, N1, N0, N0, N1, N2, N2, N0, N0⟩ : Grid) P2 = some (Z0, some M21) :=
  readBoardAux_step P2 6 (⟨N0, N1, N0, N0, N1, N2, N2, N0, N0⟩ : Grid) P2 [M00, M02, M10, M21, M22] rfl rfl
    (collectScores_cons v210012200 (collectScores_cons v012012200 (collectScores_cons v010212200 (collectScores_cons v010012220 (collectScores_cons v010012202 collectScores_nil))))) rfl

theorem v010002212 : readBoardAux P2 6 (⟨N0, N1, N0, N0, N0, N2, N2, N1, N2⟩ : Grid) P1 = some (ZM, some M02) :=
  readBoardAux_step P2 5 (⟨N0, N1, N0, N0, N0, N2, N2, N1, N2⟩ : Grid) P1 [M00, M02, M10, M11] rfl rfl
    (collectScores_cons v110002212 (collectScores_cons v011002212 (collectScores_cons v010102212 (collectScores_cons t010012212 collectScores_nil)))) rfl

theorem v010002210 : readBoardAux P2 7 (⟨N0, N1, N0, N0, N0, N2, N2, N1, N0⟩ : Grid) P2 = some (ZP, some M11) :=
  readBoardAux_step P2 6 (⟨N0, N1, N0, N0, N0, N2, N2, N1, N0⟩ : Grid) P2 [M00, M02, M10, M11, M22] rfl rfl
    (collectScores_cons v210002210 (collectScores_cons v012002210 (collectScores_cons v010202210 (collectScores_cons v010022210 (collectScores_cons v010002212 collectScores_nil))))) rfl

theorem v010002221 : readBoardAux P2 6 (⟨N0, N1, N0, N0, N0, N2, N2, N2, N1⟩ : Grid) P1 = some (ZM, some M00) :=
  readBoardAux_step P2 5 (⟨N0, N1, N0, N0, N0, N2, N2, N2, N1⟩ : Grid) P1 [M00, M02, M10, M11] rfl rfl
    (collectScores_cons v110002221 (collectScores_cons v011002221 (collectScores_cons v010102221 (collectScores_cons v010012221 collectScores_nil)))) rfl

theorem v010002201 : readBoardAux P2 7 (⟨N0, N1, N0, N0, N0, N2, N2, N0, N1⟩ : Grid) P2 = some (ZP, some M10) :=
  readBoardAux_step P2 6 (⟨N0, N1, N0, N0, N0, N2, N2, N0, N1⟩ : Grid) P2 [M00, M02, M10, M11, M21] rfl rfl
    (collectScores_cons v210002201 (collectScores_cons v012002201 (collectScores_cons v010202201 (collectScores_cons v010022201 (collectScores_cons v010002221 collectScores_nil))))) rfl

theorem v010002200 : readBoardAux P2 8 (⟨N0, N1, N0, N0, N0, N2, N2, N0, N0⟩ : Grid) P1 = some (Z0, some M11) :=
  readBoardAux_step P2 7 (⟨N0, N1, N0, N0, N0, N2, N2, N0, N0⟩ : Grid) P1 [M00, M02, M10, M11, M21, M22] rfl rfl
    (collectScores_cons v110002200 (collectScores_cons v011002200 (collectScores_cons v010102200 (collectScores_cons v010012200 (collectScores_cons v010002210 (collectScores_cons v010002201 collectScores_nil)))))) rfl

theorem v011102022 : readBoardAux P2 5 (⟨N0, N1, N1, N1, N0, N2, N0, N2, N2⟩ : Grid) P2 = some (ZP, some M00) :=
  readBoardAux_step P2 4 (⟨N0, N1, N1, N1, N0, N2, N0, N2, N2⟩ : Grid) P2 [M00, M11, M20] rfl rfl
    (collectScores_cons v211102022 (collectScores_cons v011122022 (collectScores_cons t011102222 collectScores_nil))) rfl

theorem v011012022 : readBoardAux P2 5 (⟨N0, N1, N1, N0, N1, N2, N0, N2, N2⟩ : Grid) P2 = some (ZP, some M20) :=
  readBoardAux_step P2 4 (⟨N0, N1, N1, N0, N1, N2, N0, N2, N2⟩ : Grid) P2 [M00, M10, M20] rfl rfl
    (collectScores_cons v211012022 (collectScores_cons v011212022 (collectScores_cons t011012222 collectScores_nil))) rfl

theorem v011002122 : readBoardAux P2 5 (⟨N0, N1, N1, N0, N0, N2, N1, N2, N2⟩ : Grid) P2 = some (ZM, some M00) :=
  readBoardAux_step P2 4 (⟨N0, N1, N1, N0, N0, N2, N1, N2, N2⟩ : Grid) P2 [M00, M10, M11] rfl rfl
    (collectScores_cons v211002122 (collectScores_cons v011202122 (collectScores_cons v011022122 collectScores_nil))) rfl

theorem v011002022 : readBoardAux P2 6 (⟨N0, N1, N1, N0, N0, N2, N0, N2, N2⟩ : Grid) P1 = some (ZM, some M00) :=
  readBoardAux_step P2 5 (⟨N0, N1, N1, N0, N0, N2, N0, N2, N2⟩ : Grid) P1 [M00, M10, M11, M20] rfl rfl
    (collectScores_cons t111002022 (collectScores_cons v011102022 (collectScores_cons v011012022 (collectScores_cons v011002122 collectScores_nil)))) rfl

theorem v011002020 : readBoardAux P2 7 (⟨N0, N1, N1, N0, N0, N2, N0, N2, N0⟩ : Grid) P2 = some (ZP, some M00) :=
  readBoardAux_step P2 6 (⟨N0, N1, N1, N0, N0, N2, N0, N2, N0⟩ : Grid) P2 [M00, M10, M11, M20, M22] rfl rfl
    (collectScores_cons v211002020 (collectScores_cons v011202020 (collectScores_cons v011022020 (collectScores_cons v011002220 (collectScores_cons v011002022 collectScores_nil))))) rfl

theorem v010112022 : readBoardAux P2 5 (⟨N0, N1, N0, N1, N1, N2, N0, N2, N2⟩ : Grid) P2 = some (ZP, some M00) :=
  readBoardAux_step P2 4 (⟨N0, N1, N0, N1, N1, N2, N0, N2, N2⟩ : Grid) P2 [M00, M02, M20] rfl rfl
    (collectScores_cons v210112022 (collectScores_cons t012112022 (collectScores_cons t010112222 collectScores_nil))) rfl

theorem v010102122 : readBoardAux P2 5 (⟨N0, N1, N0, N1, N0, N2, N1, N2, N2⟩ : Grid) P2 = some (ZP, some M00) :=
  readBoardAux_step P2 4 (⟨N0, N1, N0, N1, N0, N2, N1, N2, N2⟩ : Grid) P2 [M00, M02, M11] rfl rfl
    (collectScores_cons v210102122 (collectScores_cons t012102122 (collectScores_cons v010122122 collectScores_nil))) rfl

theorem v010102022 : readBoardAux P2 6 (⟨N0, N1, N0, N1, N0, N2, N0, N2, N2⟩ : Grid) P1 = some (ZP, some M00) :=
  readBoardAux_step P2 5 (⟨N0, N1, N0, N1, N0, N2, N0, N2, N2⟩ : Grid) P1 [M00, M02, M11, M20] rfl rfl
    (collectScores_cons v110102022 (collectScores_cons v011102022 (collectScores_cons v010112022 (collectScores_cons v010102122 collectScores_nil)))) rfl

theorem v010102020 : readBoardAux P2 7 (⟨N0, N1, N0, N1, N0, N2, N0, N2, N0⟩ : Grid) P2 = some (ZP, some M22) :=
  readBoardAux_step P2 6 (⟨N0, N1, N0, N1, N0, N2, N0, N2, N0⟩ : Grid) P2 [M00, M02, M11, M20, M22] rfl rfl
    (collectScores_cons v210102020 (collectScores_cons v012102020 (collectScores_cons v010122020 (collectScores_cons v010102220 (collectScores_cons v010102022 collectScores_nil))))) rfl

theorem v010012122 : readBoardAux P2 5 (⟨N0, N1, N0, N0, N1, N2, N1, N2, N2⟩ : Grid) P2 = some (ZP, some M02) :=
  readBoardAux_step P2 4 (⟨N0, N1, N0, N0, N1, N2, N1, N2, N2⟩ : Grid) P2 [M00, M02, M10] rfl rfl
    (collectScores_cons v210012122 (collectScores_cons t012012122 (collectScores_cons v010212122 collectScores_nil))) rfl

theorem v010012022 : readBoardAux P2 6 (⟨N0, N1, N0, N0, N1, N2, N0, N2, N2⟩ : Grid) P1 = some (ZP, some M00) :=
  readBoardAux_step P2 5 (⟨N0, N1, N0, N0, N1, N2, N0, N2, N2⟩ : Grid) P1 [M00, M02, M10, M20] rfl rfl
    (collectScores_cons v110012022 (collectScores_cons v011012022 (collectScores_cons v010112022 (collectScores_cons v010012122 collectScores_nil)))) rfl

theorem v010012020 : readBoardAux P2 7 (⟨N0, N1, N0, N0, N1, N2, N0, N2, N0⟩ : Grid) P2 = some (ZP, some M22) :=
  readBoardAux_step P2 6 (⟨N0, N1, N0, N0, N1, N2, N0, N2, N0⟩ : Grid) P2 [M00, M02, M10, M20, M22] rfl rfl
    (collectScores_cons v210012020 (collectScores_cons v012012020 (collectScores_cons v010212020 (collectScores_cons v010012220 (collectScores_cons v010012022 collectScores_nil))))) rfl

theorem v010002122 : readBoardAux P2 6 (⟨N0, N1, N0, N0, N0, N2, N1, N2, N2⟩ : Grid) P1 = some (ZM, some M02) :=
  readBoardAux_step P2 5 (⟨N0, N1, N0, N0, N0, N2, N1, N2, N2⟩ : Grid) P1 [M00, M02, M10, M11] rfl rfl
    (collectScores_cons v110002122 (collectScores_cons v011002122 (collectScores_cons v010102122 (collectScores_cons v010012122 collectScores_nil)))) rfl

theorem v010002120 : readBoardAux P2 7 (⟨N0, N1, N0, N0, N0, N2, N1, N2, N0⟩ : Grid) P2 = some (Z0, some M00) :=
  readBoardAux_step P2 6 (⟨N0, N1, N0, N0, N0, N2, N1, N2, N0⟩ : Grid) P2 [M00, M02, M10, M11, M22] rfl rfl
    (collectScores_cons v210002120 (collectScores_cons v012002120 (collectScores_cons v010202120 (collectScores_cons v010022120 (collectScores_cons v010002122 collectScores_nil))))) rfl

theorem v010002021 : readBoardAux P2 7 (⟨N0, N1, N0, N0, N0, N2, N0, N2, N1⟩ : Grid) P2 = some (Z0, some M00) :=
  readBoardAux_step P2 6 (⟨N0, N1, N0, N0, N0, N2, N0, N2, N1⟩ : Grid) P2 [M00, M02, M10, M11, M20] rfl rfl
    (collectScores_cons v210002021 (collectScores_cons v012002021 (collectScores_cons v010202021 (collectScores_cons v010022021 (collectScores_cons v010002221 collectScores_nil))))) rfl

theorem v010002020 : readBoardAux P2 8 (⟨N0, N1, N0, N0, N0, N2, N0, N2, N0⟩ : Grid) P1 = some (Z0, some M20) :=
  readBoardAux_step P2 7 (⟨N0, N1, N0, N0, N0, N2, N0, N2, N0⟩ : Grid) P1 [M00, M02, M10, M11, M20, M22] rfl rfl
    (collectScores_cons v110002020 (collectScores_cons v011002020 (collectScores_cons v010102020 (collectScores_cons v010012020 (collectScores_cons v010002120 (collectScores_cons v010002021 collectScores_nil)))))) rfl

theorem v011002002 : readBoardAux P2 7 (⟨N0, N1, N1, N0, N0, N2, N0, N0, N2⟩ : Grid) P2 = some (ZM, some M00) :=
  readBoardAux_step P2 6 (⟨N0, N1, N1, N0, N0, N2, N0, N0, N2⟩ : Grid) P2 [M00, M10, M11, M20, M21] rfl rfl
    (collectScores_cons v211002002 (collectScores_cons v011202002 (collectScores_cons v011022002 (collectScores_cons v011002202 (collectScores_cons v011002022 collectScores_nil))))) rfl

theorem v010102002 : readBoardAux P2 7 (⟨N0, N1, N0, N1, N0, N2, N0, N0, N2⟩ : Grid) P2 = some (ZP, some M00) :=
  readBoardAux_step P2 6 (⟨N0, N1, N0, N1, N0, N2, N0, N0, N2⟩ : Grid) P2 [M00, M02, M11, M20, M21] rfl rfl
    (collectScores_cons v210102002 (collectScores_cons t012102002 (collectScores_cons v010122002 (collectScores_cons v010102202 (collectScores_cons v010102022 collectScores_nil))))) rfl

theorem v010012002 : readBoardAux P2 7 (⟨N0, N1, N0, N0, N1, N2, N0, N0, N2⟩ : Grid) P2 = some (ZP, some M02) :=
  readBoardAux_step P2 6 (⟨N0, N1, N0, N0, N1, N2, N0, N0, N2⟩ : Grid) P2 [M00, M02, M10, M20, M21] rfl rfl
    (collectScores_cons v210012002 (collectScores_cons t012012002 (collectScores_cons v010212002 (collectScores_cons v010012202 (collectScores_cons v010012022 collectScores_nil))))) rfl

theorem v010002102 : readBoardAux P2 7 (⟨N0, N1, N0, N0, N0, N2, N1, N0, N2⟩ : Grid) P2 = some (ZP, some M00) :=
  readBoardAux_step P2 6 (⟨N0, N1, N0, N0, N0, N2, N1, N0, N2⟩ : Grid) P2 [M00, M02, M10, M11, M21] rfl rfl
    (collectScores_cons v210002102 (collectScores_cons t012002102 (collectScores_cons v010202102 (collectScores_cons v010022102 (collectScores_cons v010002122 collectScores_nil))))) rfl

theorem v010002012 : readBoardAux P2 7 (⟨N0, N1, N0, N0, N0, N2, N0, N1, N2⟩ : Grid) P2 = some (ZP, some M02) :=
  readBoardAux_step P2 6 (⟨N0, N1, N0, N0, N0, N2, N0, N1, N2⟩ : Grid) P2 [M00, M02, M10, M11, M20] rfl rfl
    (collectScores_cons v210002012 (collectScores_cons t012002012 (collectScores_cons v010202012 (collectScores_cons v010022012 (collectScores_cons v010002212 collectScores_nil))))) rfl

theorem v010002002 : readBoardAux P2 8 (⟨N0, N1, N0, N0, N0, N2, N0, N0, N2⟩ : Grid) P1 = some (ZM, some M02) :=
  readBoardAux_step P2 7 (⟨N0, N1, N0, N0, N0, N2, N0, N0, N2⟩ : Grid) P1 [M00, M02, M10, M11, M20, M21] rfl rfl
    (collectScores_cons v110002002 (collectScores_cons v011002002 (collectScores_cons v010102002 (collectScores_cons v010012002 (collectScores_cons v010002102 (collectScores_cons v010002012 collectScores_nil)))))) rfl

theorem v010002000 : readBoardAux P2 9 (⟨N0, N1, N0, N0, N0, N2, N0, N0, N0⟩ : Grid) P2 = some (ZP, some M02) :=
  readBoardAux_step P2 8 (⟨N0, N1, N0, N0, N0, N2, N0, N0, N0⟩ : Grid) P2 [M00, M02, M10, M11, M20, M21, M22] rfl rfl
    (collectScores_cons v210002000 (collectScores_cons v012002000 (collectScores_cons v010202000 (collectScores_cons v010022000 (collectScores_cons v010002200 (collectScores_cons v010002020 (collectScores_cons v010002002 collectScores_nil))))))) rfl

theorem t001112222 : readBoardAux P2 4 (⟨N0, N0, N1, N1, N1, N2, N2, N2, N2⟩ : Grid) P1 = some (ZP, none) :=
  rfl

theorem v001112220 : readBoardAux P2 5 (⟨N0, N0, N1, N1, N1, N2, N2, N2, N0⟩ : Grid) P2 = some (ZP, some M22) :=
  readBoardAux_step P2 4 (⟨N0, N0, N1, N1, N1, N2, N2, N2, N0⟩ : Grid) P2 [M00, M01, M22] rfl rfl
    (collectScores_cons v201112220 (collectScores_cons v021112220 (collectScores_cons t001112222 collectScores_nil))) rfl

theorem v001102221 : readBoardAux P2 5 (⟨N0, N0, N1, N1, N0, N2, N2, N2, N1⟩ : Grid) P2 = some (Z0, some M00) :=
  readBoardAux_step P2 4 (⟨N0, N0, N1, N1, N0, N2, N2, N2, N1⟩ : Grid) P2 [M00, M01, M11] rfl rfl
    (collectScores_cons v201102221 (collectScores_cons v021102221 (collectScores_cons v001122221 collectScores_nil))) rfl

theorem v001102220 : readBoardAux P2 6 (⟨N0, N0, N1, N1, N0, N2, N2, N2, N0⟩ : Grid) P1 = some (Z0, some M22) :=
  readBoardAux_step P2 5 (⟨N0, N0, N1, N1, N0, N2, N2, N2, N0⟩ : Grid) P1 [M00, M01, M11, M22] rfl rfl
    (collectScores_cons v101102220 (collectScores_cons v011102220 (collectScores_cons v001112220 (collectScores_cons v001102221 collectScores_nil)))) rfl

theorem v001112202 : readBoardAux P2 5 (⟨N0, N0, N1, N1, N1, N2, N2, N0, N2⟩ : Grid) P2 = some (ZP, some M21) :=
  readBoardAux_step P2 4 (⟨N0, N0, N1, N1, N1, N2, N2, N0, N2⟩ : Grid) P2 [M00, M01, M21] rfl rfl
    (collectScores_cons v201112202 (collectScores_cons v021112202 (collectScores_cons t001112222 collectScores_nil))) rfl

theorem v001102212 : readBoardAux P2 5 (⟨N0, N0, N1, N1, N0, N2, N2, N1, N2⟩ : Grid) P2 = some (Z0, some M00) :=
  readBoardAux_step P2 4 (⟨N0, N0, N1, N1, N0, N2, N2, N1, N2⟩ : Grid) P2 [M00, M01, M11] rfl rfl
    (collectScores_cons v201102212 (collectScores_cons v021102212 (collectScores_cons v001122212 collectScores_nil))) rfl

theorem v001102202 : readBoardAux P2 6 (⟨N0, N0, N1, N1, N0, N2, N2, N0, N2⟩ : Grid) P1 = some (Z0, some M21) :=
  readBoardAux_step P2 5 (⟨N0, N0, N1, N1, N0, N2, N2, N0, N2⟩ : Grid) P1 [M00, M01, M11, M21] rfl rfl
    (collectScores_cons v101102202 (collectScores_cons v011102202 (collectScores_cons v001112202 (collectScores_cons v001102212 collectScores_nil)))) rfl

theorem v001102200 : readBoardAux P2 7 (⟨N0, N0, N1, N1, N0, N2, N2, N0, N0⟩ : Grid) P2 = some (Z0, some M00) :=
  readBoardAux_step P2 6 (⟨N0, N0, N1, N1, N0, N2, N2, N0, N0⟩ : Grid) P2 [M00, M01, M11, M21, M22] rfl rfl
    (collectScores_cons v201102200 (collectScores_cons v021102200 (collectScores_cons v001122200 (collectScores_cons v001102220 (collectScores_cons v001102202 collectScores_nil))))) rfl

theorem v001012221 : readBoardAux P2 5 (⟨N0, N0, N1, N0, N1, N2, N2, N2, N1⟩ : Grid) P2 = some (Z0, some M00) :=
  readBoardAux_step P2 4 (⟨N0, N0, N1, N0, N1, N2, N2, N2, N1⟩ : Grid) P2 [M00, M01, M10] rfl rfl
    (collectScores_cons v201012221 (collectScores_cons v021012221 (collectScores_cons v001212221 collectScores_nil))) rfl

theorem v001012220 : readBoardAux P2 6 (⟨N0, N0, N1, N0, N1, N2, N2, N2, N0⟩ : Grid) P1 = some (Z0, some M22) :=
  readBoardAux_step P2 5 (⟨N0, N0, N1, N0, N1, N2, N2, N2, N0⟩ : Grid) P1 [M00, M01, M10, M22] rfl rfl
    (collectScores_cons v101012220 (collectScores_cons v011012220 (collectScores_cons v001112220 (collectScores_cons v001012221 collectScores_nil)))) rfl

theorem v001012212 : readBoardAux P2 5 (⟨N0, N0, N1, N0, N1, N2, N2, N1, N2⟩ : Grid) P2 = some (Z0, some M01) :=
  readBoardAux_step P2 4 (⟨N0, N0, N1, N0, N1, N2, N2, N1, N2⟩ : Grid) P2 [M00, M01, M10] rfl rfl
    (collectScores_cons v201012212 (collectScores_cons v021012212 (collectScores_cons v001212212 collectScores_nil))) rfl

theorem v001012202 : readBoardAux P2 6 (⟨N0, N0, N1, N0, N1, N2, N2, N0, N2⟩ : Grid) P1 = some (Z0, some M21) :=
  readBoardAux_step P2 5 (⟨N0, N0, N1, N0, N1, N2, N2, N0, N2⟩ : Grid) P1 [M00, M01, M10, M21] rfl rfl
    (collectScores_cons v101012202 (collectScores_cons v011012202 (collectScores_cons v001112202 (collectScores_cons v001012212 collectScores_nil)))) rfl

theorem v001012200 : readBoardAux P2 7 (⟨N0, N0, N1, N0, N1, N2, N2, N0, N0⟩ : Grid) P2 = some (Z0, some M00) :=
  readBoardAux_step P2 6 (⟨N0, N0, N1, N0, N1, N2, N2, N0, N0⟩ : Grid) P2 [M00, M01, M10, M21, M22] rfl rfl
    (collectScores_cons v201012200 (collectScores_cons v021012200 (collectScores_cons v001212200 (collectScores_cons v001012220 (collectScores_cons v001012202 collectScores_nil))))) rfl

theorem v001002212 : readBoardAux P2 6 (⟨N0, N0, N1, N0, N0, N2, N2, N1, N2⟩ : Grid) P1 = some (ZM, some M01) :=
  readBoardAux_step P2 5 (⟨N0, N0, N1, N0, N0, N2, N2, N1, N2⟩ : Grid) P1 [M00, M01, M10, M11] rfl rfl
    (collectScores_cons v101002212 (collectScores_cons v011002212 (collectScores_cons v001102212 (collectScores_cons v001012212 collectScores_nil)))) rfl

theorem v001002210 : readBoardAux P2 7 (⟨N0, N0, N1, N0, N0, N2, N2, N1, N0⟩ : Grid) P2 = some (ZP, some M10) :=
  readBoardAux_step P2 6 (⟨N0, N0, N1, N0, N0, N2, N2, N1, N0⟩ : Grid) P2 [M00, M01, M10, M11, M22] rfl rfl
    (collectScores_cons v201002210 (collectScores_cons v021002210 (collectScores_cons v001202210 (collectScores_cons v001022210 (collectScores_cons v001002212 collectScores_nil))))) rfl

theorem v001002221 : readBoardAux P2 6 (⟨N0, N0, N1, N0, N0, N2, N2, N2, N1⟩ : Grid) P1 = some (ZM, some M00) :=
  readBoardAux_step P2 5 (⟨N0, N0, N1, N0, N0, N2, N2, N2, N1⟩ : Grid) P1 [M00, M01, M10, M11] rfl rfl
    (collectScores_cons v101002221 (collectScores_cons v011002221 (collectScores_cons v001102221 (collectScores_cons v001012221 collectScores_nil)))) rfl

theorem v001002201 : readBoardAux P2 7 (⟨N0, N0, N1, N0, N0, N2, N2, N0, N1⟩ : Grid) P2 = some (ZP, some M10) :=
  readBoardAux_step P2 6 (⟨N0, N0, N1, N0, N0, N2, N2, N0, N1⟩ : Grid) P2 [M00, M01, M10, M11, M21] rfl rfl
    (collectScores_cons v201002201 (collectScores_cons v021002201 (collectScores_cons v001202201 (collectScores_cons v001022201 (collectScores_cons v001002221 collectScores_nil))))) rfl

theorem v001002200 : readBoardAux P2 8 (⟨N0, N0, N1, N0, N0, N2, N2, N0, N0⟩ : Grid) P1 = some (Z0, some M00) :=
  readBoardAux_step P2 7 (⟨N0, N0, N1, N0, N0, N2, N2, N0, N0⟩ : Grid) P1 [M00, M01, M10, M11, M21, M22] rfl rfl
    (collectScores_cons v101002200 (collectScores_cons v011002200 (collectScores_cons v001102200 (collectScores_cons v001012200 (collectScores_cons v001002210 (collectScores_cons v001002201 collectScores_nil)))))) rfl

theorem v001112022 : readBoardAux P2 5 (⟨N0, N0, N1, N1, N1, N2, N0, N2, N2⟩ : Grid) P2 = some (ZP, some M20) :=
  readBoardAux_step P2 4 (⟨N0, N0, N1, N1, N1, N2, N0, N2, N2⟩ : Grid) P2 [M00, M01, M20] rfl rfl
    (collectScores_cons v201112022 (collectScores_cons v021112022 (collectScores_cons t001112222 collectScores_nil))) rfl

theorem v001102122 : readBoardAux P2 5 (⟨N0, N0, N1, N1, N0, N2, N1, N2, N2⟩ : Grid) P2 = some (ZM, some M00) :=
  readBoardAux_step P2 4 (⟨N0, N0, N1, N1, N0, N2, N1, N2, N2⟩ : Grid) P2 [M00, M01, M11] rfl rfl
    (collectScores_cons v201102122 (collectScores_cons v021102122 (collectScores_cons v001122122 collectScores_nil))) rfl

theorem v001102022 : readBoardAux P2 6 (⟨N0, N0, N1, N1, N0, N2, N0, N2, N2⟩ : Grid) P1 = some (ZM, some M20) :=
  readBoardAux_step P2 5 (⟨N0, N0, N1, N1, N0, N2, N0, N2, N2⟩ : Grid) P1 [M00, M01, M11, M20] rfl rfl
    (collectScores_cons v101102022 (collectScores_cons v011102022 (collectScores_cons v001112022 (collectScores_cons v001102122 collectScores_nil)))) rfl

theorem v001102020 : readBoardAux P2 7 (⟨N0, N0, N1, N1, N0, N2, N0, N2, N0⟩ : Grid) P2 = some (Z0, some M00) :=
  readBoardAux_step P2 6 (⟨N0, N0, N1, N1, N0, N2, N0, N2, N0⟩ : Grid) P2 [M00, M01, M11, M20, M22] rfl rfl
    (collectScores_cons v201102020 (collectScores_cons v021102020 (collectScores_cons v001122020 (collectScores_cons v001102220 (collectScores_cons v001102022 collectScores_nil))))) rfl

theorem t001012122 : readBoardAux P2 5 (⟨N0, N0, N1, N0, N1, N2, N1, N2, N2⟩ : Grid) P2 = some (ZM, none) :=
  rfl

theorem v001012022 : readBoardAux P2 6 (⟨N0, N0, N1, N0, N1, N2, N0, N2, N2⟩ : Grid) P1 = some (ZM, some M20) :=
  readBoardAux_step P2 5 (⟨N0, N0, N1, N0, N1, N2, N0, N2, N2⟩ : Grid) P1 [M00, M01, M10, M20] rfl rfl
    (collectScores_cons v101012022 (collectScores_cons v011012022 (collectScores_cons v001112022 (collectScores_cons t001012122 collectScores_nil)))) rfl

theorem v001012020 : readBoardAux P2 7 (⟨N0, N0, N1, N0, N1, N2, N0, N2, N0⟩ : Grid) P2 = some (Z0, some M20) :=
  readBoardAux_step P2 6 (⟨N0, N0, N1, N0, N1, N2, N0, N2, N0⟩ : Grid) P2 [M00, M01, M10, M20, M22] rfl rfl
    (collectScores_cons v201012020 (collectScores_cons v021012020 (collectScores_cons v001212020 (collectScores_cons v001012220 (collectScores_cons v001012022 collectScores_nil))))) rfl

theorem v001002122 : readBoardAux P2 6 (⟨N0, N0, N1, N0, N0, N2, N1, N2, N2⟩ : Grid) P1 = some (ZM, some M00) :=
  readBoardAux_step P2 5 (⟨N0, N0, N1, N0, N0, N2, N1, N2, N2⟩ : Grid) P1 [M00, M01, M10, M11] rfl rfl
    (collectScores_cons v101002122 (collectScores_cons v011002122 (collectScores_cons v001102122 (collectScores_cons t001012122 collectScores_nil)))) rfl

theorem v001002120 : readBoardAux P2 7 (⟨N0, N0, N1, N0, N0, N2, N1, N2, N0⟩ : Grid) P2 = some (ZP, some M11) :=
  readBoardAux_step P2 6 (⟨N0, N0, N1, N0, N0, N2, N1, N2, N0⟩ : Grid) P2 [M00, M01, M10, M11, M22] rfl rfl
    (collectScores_cons v201002120 (collectScores_cons v021002120 (collectScores_cons v001202120 (collectScores_cons v001022120 (collectScores_cons v001002122 collectScores_nil))))) rfl

theorem v001002021 : readBoardAux P2 7 (⟨N0, N0, N1, N0, N0, N2, N0, N2, N1⟩ : Grid) P2 = some (ZP, some M11) :=
  readBoardAux_step P2 6 (⟨N0, N0, N1, N0, N0, N2, N0, N2, N1⟩ : Grid) P2 [M00, M01, M10, M11, M20] rfl rfl
    (collectScores_cons v201002021 (collectScores_cons v021002021 (collectScores_cons v001202021 (collectScores_cons v001022021 (collectScores_cons v001002221 collectScores_nil))))) rfl

theorem v001002020 : readBoardAux P2 8 (⟨N0, N0, N1, N0, N0, N2, N0, N2, N0⟩ : Grid) P1 = some (ZM, some M00) :=
  readBoardAux_step P2 7 (⟨N0, N0, N1, N0, N0, N2, N0, N2, N0⟩ : Grid) P1 [M00, M01, M10, M11, M20, M22] rfl rfl
    (collectScores_cons v101002020 (collectScores_cons v011002020 (collectScores_cons v001102020 (collectScores_cons v001012020 (collectScores_cons v001002120 (collectScores_cons v001002021 collectScores_nil)))))) rfl

theorem v001102002 : readBoardAux P2 7 (⟨N0, N0, N1, N1, N0, N2, N0, N0, N2⟩ : Grid) P2 = some (Z0, some M00) :=
  readBoardAux_step P2 6 (⟨N0, N0, N1, N1, N0, N2, N0, N0, N2⟩ : Grid) P2 [M00, M01, M11, M20, M21] rfl rfl
    (collectScores_cons v201102002 (collectScores_cons v021102002 (collectScores_cons v001122002 (collectScores_cons v001102202 (collectScores_cons v001102022 collectScores_nil))))) rfl

theorem v001012002 : readBoardAux P2 7 (⟨N0, N0, N1, N0, N1, N2, N0, N0, N2⟩ : Grid) P2 = some (Z0, some M20) :=
  readBoardAux_step P2 6 (⟨N0, N0, N1, N0, N1, N2, N0, N0, N2⟩ : Grid) P2 [M00, M01, M10, M20, M21] rfl rfl
    (collectScores_cons v201012002 (collectScores_cons v021012002 (collectScores_cons v001212002 (collectScores_cons v001012202 (collectScores_cons v001012022 collectScores_nil))))) rfl

theorem v001002102 : readBoardAux P2 7 (⟨N0, N0, N1, N0, N0, N2, N1, N0, N2⟩ : Grid) P2 = some (ZP, some M11) :=
  readBoardAux_step P2 6 (⟨N0, N0, N1, N0, N0, N2, N1, N0, N2⟩ : Grid) P2 [M00, M01, M10, M11, M21] rfl rfl
    (collectScores_cons v201002102 (collectScores_cons v021002102 (collectScores_cons v001202102 (collectScores_cons v001022102 (collectScores_cons v001002122 collectScores_nil))))) rfl

theorem v001002012 : readBoardAux P2 7 (⟨N0, N0, N1, N0, N0, N2, N0, N1, N2⟩ : Grid) P2 = some (ZP, some M11) :=
  readBoardAux_step P2 6 (⟨N0, N0, N1, N0, N0, N2, N0, N1, N2⟩ : Grid) P2 [M00, M01, M10, M11, M20] rfl rfl
    (collectScores_cons v201002012 (collectScores_cons v021002012 (collectScores_cons v001202012 (collectScores_cons v001022012 (collectScores_cons v001002212 collectScores_nil))))) rfl

theorem v001002002 : readBoardAux P2 8 (⟨N0, N0, N1, N0, N0, N2, N0, N0, N2⟩ : Grid) P1 = some (ZM, some M00) :=
  readBoardAux_step P2 7 (⟨N0, N0, N1, N0, N0, N2, N0, N0, N2⟩ : Grid) P1 [M00, M01, M10, M11, M20, M21] rfl rfl
    (collectScores_cons v101002002 (collectScores_cons v011002002 (collectScores_cons v001102002 (collectScores_cons v001012002 (collectScores_cons v001002102 (collectScores_cons v001002012 collectScores_nil)))))) rfl

theorem v001002000 : readBoardAux P2 9 (⟨N0, N0, N1, N0, N0, N2, N0, N0, N0⟩ : Grid) P2 = some (Z0, some M00) :=
  readBoardAux_step P2 8 (⟨N0, N0, N1, N0, N0, N2, N0, N0, N0⟩ : Grid) P2 [M00, M01, M10, M11, M20, M21, M22] rfl rfl
    (collectScores_cons v201002000 (collectScores_cons v021002000 (collectScores_cons v001202000 (collectScores_cons v001022000 (collectScores_cons v001002200 (collectScores_cons v001002020 (collectScores_cons v001002002 collectScores_nil))))))) rfl

theorem v000112221 : readBoardAux P2 5 (⟨N0, N0, N0, N1, N1, N2, N2, N2, N1⟩ : Grid) P2 = some (Z0, some M00) :=
  readBoardAux_step P2 4 (⟨N0, N0, N0, N1, N1, N2, N2, N2, N1⟩ : Grid) P2 [M00, M01, M02] rfl rfl
    (collectScores_cons v200112221 (collectScores_cons v020112221 (collectScores_cons v002112221 collectScores_nil))) rfl

theorem v000112220 : readBoardAux P2 6 (⟨N0, N0, N0, N1, N1, N2, N2, N2, N0⟩ : Grid) P1 = some (Z0, some M22) :=
  readBoardAux_step P2 5 (⟨N0, N0, N0, N1, N1, N2, N2, N2, N0⟩ : Grid) P1 [M00, M01, M02, M22] rfl rfl
    (collectScores_cons v100112220 (collectScores_cons v010112220 (collectScores_cons v001112220 (collectScores_cons v000112221 collectScores_nil)))) rfl

theorem v000112212 : readBoardAux P2 5 (⟨N0, N0, N0, N1, N1, N2, N2, N1, N2⟩ : Grid) P2 = some (ZP, some M02) :=
  readBoardAux_step P2 4 (⟨N0, N0, N0, N1, N1, N2, N2, N1, N2⟩ : Grid) P2 [M00, M01, M02] rfl rfl
    (collectScores_cons v200112212 (collectScores_cons v020112212 (collectScores_cons t002112212 collectScores_nil))) rfl

theorem v000112202 : readBoardAux P2 6 (⟨N0, N0, N0, N1, N1, N2, N2, N0, N2⟩ : Grid) P1 = some (ZP, some M00) :=
  readBoardAux_step P2 5 (⟨N0, N0, N0, N1, N1, N2, N2, N0, N2⟩ : Grid) P1 [M00, M01, M02, M21] rfl rfl
    (collectScores_cons v100112202 (collectScores_cons v010112202 (collectScores_cons v001112202 (collectScores_cons v000112212 collectScores_nil)))) rfl

theorem v000112200 : readBoardAux P2 7 (⟨N0, N0, N0, N1, N1, N2, N2, N0, N0⟩ : Grid) P2 = some (ZP, some M22) :=
  readBoardAux_step P2 6 (⟨N0, N0, N0, N1, N1, N2, N2, N0, N0⟩ : Grid) P2 [M00, M01, M02, M21, M22] rfl rfl
    (collectScores_cons v200112200 (collectScores_cons v020112200 (collectScores_cons v002112200 (collectScores_cons v000112220 (collectScores_cons v000112202 collectScores_nil))))) rfl

theorem v000102212 : readBoardAux P2 6 (⟨N0, N0, N0, N1, N0, N2, N2, N1, N2⟩ : Grid) P1 = some (Z0, some M02) :=
  readBoardAux_step P2 5 (⟨N0, N0, N0, N1, N0, N2, N2, N1, N2⟩ : Grid) P1 [M00, M01, M02, M11] rfl rfl
    (collectScores_cons v100102212 (collectScores_cons v010102212 (collectScores_cons v001102212 (collectScores_cons v000112212 collectScores_nil)))) rfl

theorem v000102210 : readBoardAux P2 7 (⟨N0, N0, N0, N1, N0, N2, N2, N1, N0⟩ : Grid) P2 = some (ZP, some M02) :=
  readBoardAux_step P2 6 (⟨N0, N0, N0, N1, N0, N2, N2, N1, N0⟩ : Grid) P2 [M00, M01, M02, M11, M22] rfl rfl
    (collectScores_cons v200102210 (collectScores_cons v020102210 (collectScores_cons v002102210 (collectScores_cons v000122210 (collectScores_cons v000102212 collectScores_nil))))) rfl

theorem v000102221 : readBoardAux P2 6 (⟨N0, N0, N0, N1, N0, N2, N2, N2, N1⟩ : Grid) P1 = some (Z0, some M01) :=
  readBoardAux_step P2 5 (⟨N0, N0, N0, N1, N0, N2, N2, N2, N1⟩ : Grid) P1 [M00, M01, M02, M11] rfl rfl
    (collectScores_cons v100102221 (collectScores_cons v010102221 (collectScores_cons v001102221 (collectScores_cons v000112221 collectScores_nil)))) rfl

theorem v000102201 : readBoardAux P2 7 (⟨N0, N0, N0, N1, N0, N2, N2, N0, N1⟩ : Grid) P2 = some (Z0, some M00) :=
  readBoardAux_step P2 6 (⟨N0, N0, N0, N1, N0, N2, N2, N0, N1⟩ : Grid) P2 [M00, M01, M02, M11, M21] rfl rfl
    (collectScores_cons v200102201 (collectScores_cons v020102201 (collectScores_cons v002102201 (collectScores_cons v000122201 (collectScores_cons v000102221 collectScores_nil))))) rfl

theorem v000102200 : readBoardAux P2 8 (⟨N0, N0, N0, N1, N0, N2, N2, N0, N0⟩ : Grid) P1 = some (Z0, some M02) :=
  readBoardAux_step P2 7 (⟨N0, N0, N0, N1, N0, N2, N2, N0, N0⟩ : Grid) P1 [M00, M01, M02, M11, M21, M22] rfl rfl
    (collectScores_cons v100102200 (collectScores_cons v010102200 (collectScores_cons v001102200 (collectScores_cons v000112200 (collectScores_cons v000102210 (collectScores_cons v000102201 collectScores_nil)))))) rfl

theorem v000112122 : readBoardAux P2 5 (⟨N0, N0, N0, N1, N1, N2, N1, N2, N2⟩ : Grid) P2 = some (ZP, some M02) :=
  readBoardAux_step P2 4 (⟨N0, N0, N0, N1, N1, N2, N1, N2, N2⟩ : Grid) P2 [M00, M01, M02] rfl rfl
    (collectScores_cons v200112122 (collectScores_cons v020112122 (collectScores_cons t002112122 collectScores_nil))) rfl

theorem v000112022 : readBoardAux P2 6 (⟨N0, N0, N0, N1, N1, N2, N0, N2, N2⟩ : Grid) P1 = some (ZP, some M00) :=
  readBoardAux_step P2 5 (⟨N0, N0, N0, N1, N1, N2, N0, N2, N2⟩ : Grid) P1 [M00, M01, M02, M20] rfl rfl
    (collectScores_cons v100112022 (collectScores_cons v010112022 (collectScores_cons v001112022 (collectScores_cons v000112122 collectScores_nil)))) rfl

theorem v000112020 : readBoardAux P2 7 (⟨N0, N0, N0, N1, N1, N2, N0, N2, N0⟩ : Grid) P2 = some (ZP, some M22) :=
  readBoardAux_step P2 6 (⟨N0, N0, N0, N1, N1, N2, N0, N2, N0⟩ : Grid) P2 [M00, M01, M02, M20, M22] rfl rfl
    (collectScores_cons v200112020 (collectScores_cons v020112020 (collectScores_cons v002112020 (collectScores_cons v000112220 (collectScores_cons v000112022 collectScores_nil))))) rfl

theorem v000102122 : readBoardAux P2 6 (⟨N0, N0, N0, N1, N0, N2, N1, N2, N2⟩ : Grid) P1 = some (ZM, some M00) :=
  readBoardAux_step P2 5 (⟨N0, N0, N0, N1, N0, N2, N1, N2, N2⟩ : Grid) P1 [M00, M01, M02, M11] rfl rfl
    (collectScores_cons t100102122 (collectScores_cons v010102122 (collectScores_cons v001102122 (collectScores_cons v000112122 collectScores_nil)))) rfl

theorem v000102120 : readBoardAux P2 7 (⟨N0, N0, N0, N1, N0, N2, N1, N2, N0⟩ : Grid) P2 = some (ZP, some M00) :=
  readBoardAux_step P2 6 (⟨N0, N0, N0, N1, N0, N2, N1, N2, N0⟩ : Grid) P2 [M00, M01, M02, M11, M22] rfl rfl
    (collectScores_cons v200102120 (collectScores_cons v020102120 (collectScores_cons v002102120 (collectScores_cons v000122120 (collectScores_cons v000102122 collectScores_nil))))) rfl

theorem v000102021 : readBoardAux P2 7 (⟨N0, N0, N0, N1, N0, N2, N0, N2, N1⟩ : Grid) P2 = some (Z0, some M00) :=
  readBoardAux_step P2 6 (⟨N0, N0, N0, N1, N0, N2, N0, N2, N1⟩ : Grid) P2 [M00, M01, M02, M11, M20] rfl rfl
    (collectScores_cons v200102021 (collectScores_cons v020102021 (collectScores_cons v002102021 (collectScores_cons v000122021 (collectScores_cons v000102221 collectScores_nil))))) rfl

theorem v000102020 : readBoardAux P2 8 (⟨N0, N0, N0, N1, N0, N2, N0, N2, N0⟩ : Grid) P1 = some (Z0, some M02) :=
  readBoardAux_step P2 7 (⟨N0, N0, N0, N1, N0, N2, N0, N2, N0⟩ : Grid) P1 [M00, M01, M02, M11, M20, M22] rfl rfl
    (collectScores_cons v100102020 (collectScores_cons v010102020 (collectScores_cons v001102020 (collectScores_cons v000112020 (collectScores_cons v000102120 (collectScores_cons v000102021 collectScores_nil)))))) rfl

theorem v000112002 : readBoardAux P2 7 (⟨N0, N0, N0, N1, N1, N2, N0, N0, N2⟩ : Grid) P2 = some (ZP, some M02) :=
  readBoardAux_step P2 6 (⟨N0, N0, N0, N1, N1, N2, N0, N0, N2⟩ : Grid) P2 [M00, M01, M02, M20, M21] rfl rfl
    (collectScores_cons v200112002 (collectScores_cons v020112002 (collectScores_cons t002112002 (collectScores_cons v000112202 (collectScores_cons v000112022 collectScores_nil))))) rfl

theorem v000102102 : readBoardAux P2 7 (⟨N0, N0, N0, N1, N0, N2, N1, N0, N2⟩ : Grid) P2 = some (ZP, some M00) :=
  readBoardAux_step P2 6 (⟨N0, N0, N0, N1, N0, N2, N1, N0, N2⟩ : Grid) P2 [M00, M01, M02, M11, M21] rfl rfl
    (collectScores_cons v200102102 (collectScores_cons v020102102 (collectScores_cons t002102102 (collectScores_cons v000122102 (collectScores_cons v000102122 collectScores_nil))))) rfl

theorem v000102012 : readBoardAux P2 7 (⟨N0, N0, N0, N1, N0, N2, N0, N1, N2⟩ : Grid) P2 = some (ZP, some M00) :=
  readBoardAux_step P2 6 (⟨N0, N0, N0, N1, N0, N2, N0, N1, N2⟩ : Grid) P2 [M00, M01, M02, M11, M20] rfl rfl
    (collectScores_cons v200102012 (collectScores_cons v020102012 (collectScores_cons t002102012 (collectScores_cons v000122012 (collectScores_cons v000102212 collectScores_nil))))) rfl

theorem v000102002 : readBoardAux P2 8 (⟨N0, N0, N0, N1, N0, N2, N0, N0, N2⟩ : Grid) P1 = some (Z0, some M02) :=
  readBoardAux_step P2 7 (⟨N0, N0, N0, N1, N0, N2, N0, N0, N2⟩ : Grid) P1 [M00, M01, M02, M11, M20, M21] rfl rfl
    (collectScores_cons v100102002 (collectScores_cons v010102002 (collectScores_cons v001102002 (collectScores_cons v000112002 (collectScores_cons v000102102 (collectScores_cons v000102012 collectScores_nil)))))) rfl

theorem v000102000 : readBoardAux P2 9 (⟨N0, N0, N0, N1, N0, N2, N0, N0, N0⟩ : Grid) P2 = some (Z0, some M00) :=
  readBoardAux_step P2 8 (⟨N0, N0, N0, N1, N0, N2, N0, N0, N0⟩ : Grid) P2 [M00, M01, M02, M11, M20, M21, M22] rfl rfl
    (collectScores_cons v200102000 (collectScores_cons v020102000 (collectScores_cons v002102000 (collectScores_cons v000122000 (collectScores_cons v000102200 (collectScores_cons v000102020 (collectScores_cons v000102002 collectScores_nil))))))) rfl

theorem v000012212 : readBoardAux P2 6 (⟨N0, N0, N0, N0, N1, N2, N2, N1, N2⟩ : Grid) P1 = some (ZM, some M01) :=
  readBoardAux_step P2 5 (⟨N0, N0, N0, N0, N1, N2, N2, N1, N2⟩ : Grid) P1 [M00, M01, M02, M10] rfl rfl
    (collectScores_cons v100012212 (collectScores_cons t010012212 (collectScores_cons v001012212 (collectScores_cons v000112212 collectScores_nil)))) rfl

theorem v000012210 : readBoardAux P2 7 (⟨N0, N0, N0, N0, N1, N2, N2, N1, N0⟩ : Grid) P2 = some (Z0, some M01) :=
  readBoardAux_step P2 6 (⟨N0, N0, N0, N0, N1, N2, N2, N1, N0⟩ : Grid) P2 [M00, M01, M02, M10, M22] rfl rfl
    (collectScores_cons v200012210 (collectScores_cons v020012210 (collectScores_cons v002012210 (collectScores_cons v000212210 (collectScores_cons v000012212 collectScores_nil))))) rfl

theorem v000012221 : readBoardAux P2 6 (⟨N0, N0, N0, N0, N1, N2, N2, N2, N1⟩ : Grid) P1 = some (ZM, some M00) :=
  readBoardAux_step P2 5 (⟨N0, N0, N0, N0, N1, N2, N2, N2, N1⟩ : Grid) P1 [M00, M01, M02, M10] rfl rfl
    (collectScores_cons t100012221 (collectScores_cons v010012221 (collectScores_cons v001012221 (collectScores_cons v000112221 collectScores_nil)))) rfl

theorem v000012201 : readBoardAux P2 7 (⟨N0, N0, N0, N0, N1, N2, N2, N0, N1⟩ : Grid) P2 = some (Z0, some M00) :=
  readBoardAux_step P2 6 (⟨N0, N0, N0, N0, N1, N2, N2, N0, N1⟩ : Grid) P2 [M00, M01, M02, M10, M21] rfl rfl
    (collectScores_cons v200012201 (collectScores_cons v020012201 (collectScores_cons v002012201 (collectScores_cons v000212201 (collectScores_cons v000012221 collectScores_nil))))) rfl

theorem v000012200 : readBoardAux P2 8 (⟨N0, N0, N0, N0, N1, N2, N2, N0, N0⟩ : Grid) P1 = some (Z0, some M01) :=
  readBoardAux_step P2 7 (⟨N0, N0, N0, N0, N1, N2, N2, N0, N0⟩ : Grid) P1 [M00, M01, M02, M10, M21, M22] rfl rfl
    (collectScores_cons v100012200 (collectScores_cons v010012200 (collectScores_cons v001012200 (collectScores_cons v000112200 (collectScores_cons v000012210 (collectScores_cons v000012201 collectScores_nil)))))) rfl

theorem v000012122 : readBoardAux P2 6 (⟨N0, N0, N0, N0, N1, N2, N1, N2, N2⟩ : Grid) P1 = some (ZM, some M02) :=
  readBoardAux_step P2 5 (⟨N0, N0, N0, N0, N1, N2, N1, N2, N2⟩ : Grid) P1 [M00, M01, M02, M10] rfl rfl
    (collectScores_cons v100012122 (collectScores_cons v010012122 (collectScores_cons t001012122 (collectScores_cons v000112122 collectScores_nil)))) rfl

theorem v000012120 : readBoardAux P2 7 (⟨N0, N0, N0, N0, N1, N2, N1, N2, N0⟩ : Grid) P2 = some (Z0, some M02) :=
  readBoardAux_step P2 6 (⟨N0, N0, N0, N0, N1, N2, N1, N2, N0⟩ : Grid) P2 [M00, M01, M02, M10, M22] rfl rfl
    (collectScores_cons v200012120 (collectScores_cons v020012120 (collectScores_cons v002012120 (collectScores_cons v000212120 (collectScores_cons v000012122 collectScores_nil))))) rfl

theorem v000012021 : readBoardAux P2 7 (⟨N0, N0, N0, N0, N1, N2, N0, N2, N1⟩ : Grid) P2 = some (Z0, some M00) :=
  readBoardAux_step P2 6 (⟨N0, N0, N0, N0, N1, N2, N0, N2, N1⟩ : Grid) P2 [M00, M01, M02, M10, M20] rfl rfl
    (collectScores_cons v200012021 (collectScores_cons v020012021 (collectScores_cons v002012021 (collectScores_cons v000212021 (collectScores_cons v000012221 collectScores_nil))))) rfl

theorem v000012020 : readBoardAux P2 8 (⟨N0, N0, N0, N0, N1, N2, N0, N2, N0⟩ : Grid) P1 = some (Z0, some M02) :=
  readBoardAux_step P2 7 (⟨N0, N0, N0, N0, N1, N2, N0, N2, N0⟩ : Grid) P1 [M00, M01, M02, M10, M20, M22] rfl rfl
    (collectScores_cons v100012020 (collectScores_cons v010012020 (collectScores_cons v001012020 (collectScores_cons v000112020 (collectScores_cons v000012120 (collectScores_cons v000012021 collectScores_nil)))))) rfl

theorem v000012102 : readBoardAux P2 7 (⟨N0, N0, N0, N0, N1, N2, N1, N0, N2⟩ : Grid) P2 = some (ZP, some M02) :=
  readBoardAux_step P2 6 (⟨N0, N0, N0, N0, N1, N2, N1, N0, N2⟩ : Grid) P2 [M00, M01, M02, M10, M21] rfl rfl
    (collectScores_cons v200012102 (collectScores_cons v020012102 (collectScores_cons t002012102 (collectScores_cons v000212102 (collectScores_cons v000012122 collectScores_nil))))) rfl

theorem v000012012 : readBoardAux P2 7 (⟨N0, N0, N0, N0, N1, N2, N0, N1, N2⟩ : Grid) P2 = some (ZP, some M02) :=
  readBoardAux_step P2 6 (⟨N0, N0, N0, N0, N1, N2, N0, N1, N2⟩ : Grid) P2 [M00, M01, M02, M10, M20] rfl rfl
    (collectScores_cons v200012012 (collectScores_cons v020012012 (collectScores_cons t002012012 (collectScores_cons v000212012 (collectScores_cons v000012212 collectScores_nil))))) rfl

theorem v000012002 : readBoardAux P2 8 (⟨N0, N0, N0, N0, N1, N2, N0, N0, N2⟩ : Grid) P1 = some (Z0, some M02) :=
  readBoardAux_step P2 7 (⟨N0, N0, N0, N0, N1, N2, N0, N0, N2⟩ : Grid) P1 [M00, M01, M02, M10, M20, M21] rfl rfl
    (collectScores_cons v100012002 (collectScores_cons v010012002 (collectScores_cons v001012002 (collectScores_cons v000112002 (collectScores_cons v000012102 (collectScores_cons v000012012 collectScores_nil)))))) rfl

theorem v000012000 : readBoardAux P2 9 (⟨N0, N0, N0, N0, N1, N2, N0, N0, N0⟩ : Grid) P2 = some (Z0, some M00) :=
  readBoardAux_step P2 8 (⟨N0, N0, N0, N0, N1, N2, N0, N0, N0⟩ : Grid) P2 [M00, M01, M02, M10, M20, M21, M22] rfl rfl
    (collectScores_cons v200012000 (collectScores_cons v020012000 (collectScores_cons v002012000 (collectScores_cons v000212000 (collectScores_cons v000012200 (collectScores_cons v000012020 (collectScores_cons v000012002 collectScores_nil))))))) rfl

theorem v000002121 : readBoardAux P2 7 (⟨N0, N0, N0, N0, N0, N2, N1, N2, N1⟩ : Grid) P2 = some (ZP, some M11) :=
  readBoardAux_step P2 6 (⟨N0, N0, N0, N0, N0, N2, N1, N2, N1⟩ : Grid) P2 [M00, M01, M02, M10, M11] rfl rfl
    (collectScores_cons v200002121 (collectScores_cons v020002121 (collectScores_cons v002002121 (collectScores_cons v000202121 (collectScores_cons v000022121 collectScores_nil))))) rfl

theorem v000002120 : readBoardAux P2 8 (⟨N0, N0, N0, N0, N0, N2, N1, N2, N0⟩ : Grid) P1 = some (ZM, some M00) :=
  readBoardAux_step P2 7 (⟨N0, N0, N0, N0, N0, N2, N1, N2, N0⟩ : Grid) P1 [M00, M01, M02, M10, M11, M22] rfl rfl
    (collectScores_cons v100002120 (collectScores_cons v010002120 (collectScores_cons v001002120 (collectScores_cons v000102120 (collectScores_cons v000012120 (collectScores_cons v000002121 collectScores_nil)))))) rfl

theorem v000002112 : readBoardAux P2 7 (⟨N0, N0, N0, N0, N0, N2, N1, N1, N2⟩ : Grid) P2 = some (ZP, some M00) :=
  readBoardAux_step P2 6 (⟨N0, N0, N0, N0, N0, N2, N1, N1, N2⟩ : Grid) P2 [M00, M01, M02, M10, M11] rfl rfl
    (collectScores_cons v200002112 (collectScores_cons v020002112 (collectScores_cons t002002112 (collectScores_cons v000202112 (collectScores_cons v000022112 collectScores_nil))))) rfl

theorem v000002102 : readBoardAux P2 8 (⟨N0, N0, N0, N0, N0, N2, N1, N0, N2⟩ : Grid) P1 = some (ZP, some M00) :=
  readBoardAux_step P2 7 (⟨N0, N0, N0, N0, N0, N2, N1, N0, N2⟩ : Grid) P1 [M00, M01, M02, M10, M11, M21] rfl rfl
    (collectScores_cons v100002102 (collectScores_cons v010002102 (collectScores_cons v001002102 (collectScores_cons v000102102 (collectScores_cons v000012102 (collectScores_cons v000002112 collectScores_nil)))))) rfl

theorem v000002100 : readBoardAux P2 9 (⟨N0, N0, N0, N0, N0, N2, N1, N0, N0⟩ : Grid) P2 = some (ZP, some M22) :=
  readBoardAux_step P2 8 (⟨N0, N0, N0, N0, N0, N2, N1, N0, N0⟩ : Grid) P2 [M00, M01, M02, M10, M11, M21, M22] rfl rfl
    (collectScores_cons v200002100 (collectScores_cons v020002100 (collectScores_cons v002002100 (collectScores_cons v000202100 (collectScores_cons v000022100 (collectScores_cons v000002120 (collectScores_cons v000002102 collectScores_nil))))))) rfl

theorem v000002211 : readBoardAux P2 7 (⟨N0, N0, N0, N0, N0, N2, N2, N1, N1⟩ : Grid) P2 = some (ZP, some M00) :=
  readBoardAux_step P2 6 (⟨N0, N0, N0, N0, N0, N2, N2, N1, N1⟩ : Grid) P2 [M00, M01, M02, M10, M11] rfl rfl
    (collectScores_cons v200002211 (collectScores_cons v020002211 (collectScores_cons v002002211 (collectScores_cons v000202211 (collectScores_cons v000022211 collectScores_nil))))) rfl

theorem v000002210 : readBoardAux P2 8 (⟨N0, N0, N0, N0, N0, N2, N2, N1, N0⟩ : Grid) P1 = some (Z0, some M11) :=
  readBoardAux_step P2 7 (⟨N0, N0, N0, N0, N0, N2, N2, N1, N0⟩ : Grid) P1 [M00, M01, M02, M10, M11, M22] rfl rfl
    (collectScores_cons v100002210 (collectScores_cons v010002210 (collectScores_cons v001002210 (collectScores_cons v000102210 (collectScores_cons v000012210 (collectScores_cons v000002211 collectScores_nil)))))) rfl

theorem v000002012 : readBoardAux P2 8 (⟨N0, N0, N0, N0, N0, N2, N0, N1, N2⟩ : Grid) P1 = some (ZP, some M00) :=
  readBoardAux_step P2 7 (⟨N0, N0, N0, N0, N0, N2, N0, N1, N2⟩ : Grid) P1 [M00, M01, M02, M10, M11, M20] rfl rfl
    (collectScores_cons v100002012 (collectScores_cons v010002012 (collectScores_cons v001002012 (collectScores_cons v000102012 (collectScores_cons v000012012 (collectScores_cons v000002112 collectScores_nil)))))) rfl

theorem v000002010 : readBoardAux P2 9 (⟨N0, N0, N0, N0, N0, N2, N0, N1, N0⟩ : Grid) P2 = some (ZP, some M11) :=
  readBoardAux_step P2 8 (⟨N0, N0, N0, N0, N0, N2, N0, N1, N0⟩ : Grid) P2 [M00, M01, M02, M10, M11, M20, M22] rfl rfl
    (collectScores_cons v200002010 (collectScores_cons v020002010 (collectScores_cons v002002010 (collectScores_cons v000202010 (collectScores_cons v000022010 (collectScores_cons v000002210 (collectScores_cons v000002012 collectScores_nil))))))) rfl

theorem v000002201 : readBoardAux P2 8 (⟨N0, N0, N0, N0, N0, N2, N2, N0, N1⟩ : Grid) P1 = some (Z0, some M10) :=
  readBoardAux_step P2 7 (⟨N0, N0, N0, N0, N0, N2, N2, N0, N1⟩ : Grid) P1 [M00, M01, M02, M10, M11, M21] rfl rfl
    (collectScores_cons v100002201 (collectScores_cons v010002201 (collectScores_cons v001002201 (collectScores_cons v000102201 (collectScores_cons v000012201 (collectScores_cons v000002211 collectScores_nil)))))) rfl

theorem v000002021 : readBoardAux P2 8 (⟨N0, N0, N0, N0, N0, N2, N0, N2, N1⟩ : Grid) P1 = some (Z0, some M01) :=
  readBoardAux_step P2 7 (⟨N0, N0, N0, N0, N0, N2, N0, N2, N1⟩ : Grid) P1 [M00, M01, M02, M10, M11, M20] rfl rfl
    (collectScores_cons v100002021 (collectScores_cons v010002021 (collectScores_cons v001002021 (collectScores_cons v000102021 (collectScores_cons v000012021 (collectScores_cons v000002121 collectScores_nil)))))) rfl

theorem v000002001 : readBoardAux P2 9 (⟨N0, N0, N0, N0, N0, N2, N0, N0, N1⟩ : Grid) P2 = some (Z0, some M00) :=
  readBoardAux_step P2 8 (⟨N0, N0, N0, N0, N0, N2, N0, N0, N1⟩ : Grid) P2 [M00, M01, M02, M10, M11, M20, M21] rfl rfl
    (collectScores_cons v200002001 (collectScores_cons v020002001 (collectScores_cons v002002001 (collectScores_cons v000202001 (collectScores_cons v000022001 (collectScores_cons v000002201 (collectScores_cons v000002021 collectScores_nil))))))) rfl

theorem v000002000 : readBoardAux P2 10 (⟨N0, N0, N0, N0, N0, N2, N0, N0, N0⟩ : Grid) P1 = some (Z0, some M02) :=
  readBoardAux_step P2 9 (⟨N0, N0, N0, N0, N0, N2, N0, N0, N0⟩ : Grid) P1 [M00, M01, M02, M10, M11, M20, M21, M22] rfl rfl
    (collectScores_cons v100002000 (collectScores_cons v010002000 (collectScores_cons v001002000 (collectScores_cons v000102000 (collectScores_cons v000012000 (collectScores_cons v000002100 (collectScores_cons v000002010 (collectScores_cons v000002001 collectScores_nil)))))))) rfl

theorem t110000222 : readBoardAux P2 6 (⟨N1, N1, N0, N0, N0, N0, N2, N2, N2⟩ : Grid) P1 = some (ZP, none) :=
  rfl

theorem v110000220 : readBoardAux P2 7 (⟨N1, N1, N0, N0, N0, N0, N2, N2, N0⟩ : Grid) P2 = some (ZP, some M02) :=
  readBoardAux_step P2 6 (⟨N1, N1, N0, N0, N0, N0, N2, N2, N0⟩ : Grid) P2 [M02, M10, M11, M12, M22] rfl rfl
    (collectScores_cons v112000220 (collectScores_cons v110200220 (collectScores_cons v110020220 (collectScores_cons v110002220 (collectScores_cons t110000222 collectScores_nil))))) rfl

theorem t101000222 : readBoardAux P2 6 (⟨N1, N0, N1, N0, N0, N0, N2, N2, N2⟩ : Grid) P1 = some (ZP, none) :=
  rfl

theorem v101000220 : readBoardAux P2 7 (⟨N1, N0, N1, N0, N0, N0, N2, N2, N0⟩ : Grid) P2 = some (ZP, some M01) :=
  readBoardAux_step P2 6 (⟨N1, N0, N1, N0, N0, N0, N2, N2, N0⟩ : Grid) P2 [M01, M10, M11, M12, M22] rfl rfl
    (collectScores_cons v121000220 (collectScores_cons v101200220 (collectScores_cons v101020220 (collectScores_cons v101002220 (collectScores_cons t101000222 collectScores_nil))))) rfl

theorem t100100222 : readBoardAux P2 6 (⟨N1, N0, N0, N1, N0, N0, N2, N2, N2⟩ : Grid) P1 = some (ZP, none) :=
  rfl

theorem v100100220 : readBoardAux P2 7 (⟨N1, N0, N0, N1, N0, N0, N2, N2, N0⟩ : Grid) P2 = some (ZP, some M01) :=
  readBoardAux_step P2 6 (⟨N1, N0, N0, N1, N0, N0, N2, N2, N0⟩ : Grid) P2 [M01, M02, M11, M12, M22] rfl rfl
    (collectScores_cons v120100220 (collectScores_cons v102100220 (collectScores_cons v100120220 (collectScores_cons v100102220 (collectScores_cons t100100222 collectScores_nil))))) rfl

theorem t100010222 : readBoardAux P2 6 (⟨N1, N0, N0, N0, N1, N0, N2, N2, N2⟩ : Grid) P1 = some (ZP, none) :=
  rfl

theorem v100010220 : readBoardAux P2 7 (⟨N1, N0, N0, N0, N1, N0, N2, N2, N0⟩ : Grid) P2 = some (ZP, some M22) :=
  readBoardAux_step P2 6 (⟨N1, N0, N0, N0, N1, N0, N2, N2, N0⟩ : Grid) P2 [M01, M02, M10, M12, M22] rfl rfl
    (collectScores_cons v120010220 (collectScores_cons v102010220 (collectScores_cons v100210220 (collectScores_cons v100012220 (collectScores_cons t100010222 collectScores_nil))))) rfl

theorem t100001222 : readBoardAux P2 6 (⟨N1, N0, N0, N0, N0, N1, N2, N2, N2⟩ : Grid) P1 = some (ZP, none) :=
  rfl

theorem v100001220 : readBoardAux P2 7 (⟨N1, N0, N0, N0, N0, N1, N2, N2, N0⟩ : Grid) P2 = some (ZP, some M01) :=
  readBoardAux_step P2 6 (⟨N1, N0, N0, N0, N0, N1, N2, N2, N0⟩ : Grid) P2 [M01, M02, M10, M11, M22] rfl rfl
    (collectScores_cons v120001220 (collectScores_cons v102001220 (collectScores_cons v100201220 (collectScores_cons v100021220 (collectScores_cons t100001222 collectScores_nil))))) rfl

theorem v100000221 : readBoardAux P2 7 (⟨N1, N0, N0, N0, N0, N0, N2, N2, N1⟩ : Grid) P2 = some (ZP, some M11) :=
  readBoardAux_step P2 6 (⟨N1, N0, N0, N0, N0, N0, N2, N2, N1⟩ : Grid) P2 [M01, M02, M10, M11, M12] rfl rfl
    (collectScores_cons v120000221 (collectScores_cons v102000221 (collectScores_cons v100200221 (collectScores_cons v100020221 (collectScores_cons v100002221 collectScores_nil))))) rfl

theorem v100000220 : readBoardAux P2 8 (⟨N1, N0, N0, N0, N0, N0, N2, N2, N0⟩ : Grid) P1 = some (ZP, some M01) :=
  readBoardAux_step P2 7 (⟨N1, N0, N0, N0, N0, N0, N2, N2, N0⟩ : Grid) P1 [M01, M02, M10, M11, M12, M22] rfl rfl
    (collectScores_cons v110000220 (collectScores_cons v101000220 (collectScores_cons v100100220 (collectScores_cons v100010220 (collectScores_cons v100001220 (collectScores_cons v100000221 collectScores_nil)))))) rfl

theorem v110000202 : readBoardAux P2 7 (⟨N1, N1, N0, N0, N0, N0, N2, N0, N2⟩ : Grid) P2 = some (ZP, some M02) :=
  readBoardAux_step P2 6 (⟨N1, N1, N0, N0, N0, N0, N2, N0, N2⟩ : Grid) P2 [M02, M10, M11, M12, M21] rfl rfl
    (collectScores_cons v112000202 (collectScores_cons v110200202 (collectScores_cons v110020202 (collectScores_cons v110002202 (collectScores_cons t110000222 collectScores_nil))))) rfl

theorem v101000202 : readBoardAux P2 7 (⟨N1, N0, N1, N0, N0, N0, N2, N0, N2⟩ : Grid) P2 = some (ZP, some M21) :=
  readBoardAux_step P2 6 (⟨N1, N0, N1, N0, N0, N0, N2, N0, N2⟩ : Grid) P2 [M01, M10, M11, M12, M21] rfl rfl
    (collectScores_cons v121000202 (collectScores_cons v101200202 (collectScores_cons v101020202 (collectScores_cons v101002202 (collectScores_cons t101000222 collectScores_nil))))) rfl

theorem v100100202 : readBoardAux P2 7 (⟨N1, N0, N0, N1, N0, N0, N2, N0, N2⟩ : Grid) P2 = some (ZP, some M01) :=
  readBoardAux_step P2 6 (⟨N1, N0, N0, N1, N0, N0, N2, N0, N2⟩ : Grid) P2 [M01, M02, M11, M12, M21] rfl rfl
    (collectScores_cons v120100202 (collectScores_cons v102100202 (collectScores_cons v100120202 (collectScores_cons v100102202 (collectScores_cons t100100222 collectScores_nil))))) rfl

theorem v100010202 : readBoardAux P2 7 (⟨N1, N0, N0, N0, N1, N0, N2, N0, N2⟩ : Grid) P2 = some (ZP, some M02) :=
  readBoardAux_step P2 6 (⟨N1, N0, N0, N0, N1, N0, N2, N0, N2⟩ : Grid) P2 [M01, M02, M10, M12, M21] rfl rfl
    (collectScores_cons v120010202 (collectScores_cons v102010202 (collectScores_cons v100210202 (collectScores_cons v100012202 (collectScores_cons t100010222 collectScores_nil))))) rfl

theorem v100001202 : readBoardAux P2 7 (⟨N1, N0, N0, N0, N0, N1, N2, N0, N2⟩ : Grid) P2 = some (ZP, some M02) :=
  readBoardAux_step P2 6 (⟨N1, N0, N0, N0, N0, N1, N2, N0, N2⟩ : Grid) P2 [M01, M02, M10, M11, M21] rfl rfl
    (collectScores_cons v120001202 (collectScores_cons v102001202 (collectScores_cons v100201202 (collectScores_cons v100021202 (collectScores_cons t100001222 collectScores_nil))))) rfl

theorem v100000212 : readBoardAux P2 7 (⟨N1, N0, N0, N0, N0, N0, N2, N1, N2⟩ : Grid) P2 = some (ZP, some M02) :=
  readBoardAux_step P2 6 (⟨N1, N0, N0, N0, N0, N0, N2, N1, N2⟩ : Grid) P2 [M01, M02, M10, M11, M12] rfl rfl
    (collectScores_cons v120000212 (collectScores_cons v102000212 (collectScores_cons v100200212 (collectScores_cons v100020212 (collectScores_cons v100002212 collectScores_nil))))) rfl

theorem v100000202 : readBoardAux P2 8 (⟨N1, N0, N0, N0, N0, N0, N2, N0, N2⟩ : Grid) P1 = some (ZP, some M01) :=
  readBoardAux_step P2 7 (⟨N1, N0, N0, N0, N0, N0, N2, N0, N2⟩ : Grid) P1 [M01, M02, M10, M11, M12, M21] rfl rfl
    (collectScores_cons v110000202 (collectScores_cons v101000202 (collectScores_cons v100100202 (collectScores_cons v100010202 (collectScores_cons v100001202 (collectScores_cons v100000212 collectScores_nil)))))) rfl

theorem v100000200 : readBoardAux P2 9 (⟨N1, N0, N0, N0, N0, N0, N2, N0, N0⟩ : Grid) P2 = some (ZP, some M02) :=
  readBoardAux_step P2 8 (⟨N1, N0, N0, N0, N0, N0, N2, N0, N0⟩ : Grid) P2 [M01, M02, M10, M11, M12, M21, M22] rfl rfl
    (collectScores_cons v120000200 (collectScores_cons v102000200 (collectScores_cons v100200200 (collectScores_cons v100020200 (collectScores_cons v100002200 (collectScores_cons v100000220 (collectScores_cons v100000202 collectScores_nil))))))) rfl

theorem t011000222 : readBoardAux P2 6 (⟨N0, N1, N1, N0, N0, N0, N2, N2, N2⟩ : Grid) P1 = some (ZP, none) :=
  rfl

theorem v011000220 : readBoardAux P2 7 (⟨N0, N1, N1, N0, N0, N0, N2, N2, N0⟩ : Grid) P2 = some (ZP, some M00) :=
  readBoardAux_step P2 6 (⟨N0, N1, N1, N0, N0, N0, N2, N2, N0⟩ : Grid) P2 [M00, M10, M11, M12, M22] rfl rfl
    (collectScores_cons v211000220 (collectScores_cons v011200220 (collectScores_cons v011020220 (collectScores_cons v011002220 (collectScores_cons t011000222 collectScores_nil))))) rfl

theorem t010100222 : readBoardAux P2 6 (⟨N0, N1, N0, N1, N0, N0, N2, N2, N2⟩ : Grid) P1 = some (ZP, none) :=
  rfl

theorem v010100220 : readBoardAux P2 7 (⟨N0, N1, N0, N1, N0, N0, N2, N2, N0⟩ : Grid) P2 = some (ZP, some M02) :=
  readBoardAux_step P2 6 (⟨N0, N1, N0, N1, N0, N0, N2, N2, N0⟩ : Grid) P2 [M00, M02, M11, M12, M22] rfl rfl
    (collectScores_cons v210100220 (collectScores_cons v012100220 (collectScores_cons v010120220 (collectScores_cons v010102220 (collectScores_cons t010100222 collectScores_nil))))) rfl

theorem t010010222 : readBoardAux P2 6 (⟨N0, N1, N0, N0, N1, N0, N2, N2, N2⟩ : Grid) P1 = some (ZP, none) :=
  rfl

theorem v010010220 : readBoardAux P2 7 (⟨N0, N1, N0, N0, N1, N0, N2, N2, N0⟩ : Grid) P2 = some (ZP, some M00) :=
  readBoardAux_step P2 6 (⟨N0, N1, N0, N0, N1, N0, N2, N2, N0⟩ : Grid) P2 [M00, M02, M10, M12, M22] rfl rfl
    (collectScores_cons v210010220 (collectScores_cons v012010220 (collectScores_cons v010210220 (collectScores_cons v010012220 (collectScores_cons t010010222 collectScores_nil))))) rfl

theorem t010001222 : readBoardAux P2 6 (⟨N0, N1, N0, N0, N0, N1, N2, N2, N2⟩ : Grid) P1 = some (ZP, none) :=
  rfl

theorem v010001220 : readBoardAux P2 7 (⟨N0, N1, N0, N0, N0, N1, N2, N2, N0⟩ : Grid) P2 = some (ZP, some M00) :=
  readBoardAux_step P2 6 (⟨N0, N1, N0, N0, N0, N1, N2, N2, N0⟩ : Grid) P2 [M00, M02, M10, M11, M22] rfl rfl
    (collectScores_cons v210001220 (collectScores_cons v012001220 (collectScores_cons v010201220 (collectScores_cons v010021220 (collectScores_cons t010001222 collectScores_nil))))) rfl

theorem v010000221 : readBoardAux P2 7 (⟨N0, N1, N0, N0, N0, N0, N2, N2, N1⟩ : Grid) P2 = some (Z0, some M00) :=
  readBoardAux_step P2 6 (⟨N0, N1, N0, N0, N0, N0, N2, N2, N1⟩ : Grid) P2 [M00, M02, M10, M11, M12] rfl rfl
    (collectScores_cons v210000221 (collectScores_cons v012000221 (collectScores_cons v010200221 (collectScores_cons v010020221 (collectScores_cons v010002221 collectScores_nil))))) rfl

theorem v010000220 : readBoardAux P2 8 (⟨N0, N1, N0, N0, N0, N0, N2, N2, N0⟩ : Grid) P1 = some (Z0, some M22) :=
  readBoardAux_step P2 7 (⟨N0, N1, N0, N0, N0, N0, N2, N2, N0⟩ : Grid) P1 [M00, M02, M10, M11, M12, M22] rfl rfl
    (collectScores_cons v110000220 (collectScores_cons v011000220 (collectScores_cons v010100220 (collectScores_cons v010010220 (collectScores_cons v010001220 (collectScores_cons v010000221 collectScores_nil)))))) rfl

theorem v011000202 : readBoardAux P2 7 (⟨N0, N1, N1, N0, N0, N0, N2, N0, N2⟩ : Grid) P2 = some (ZP, some M00) :=
  readBoardAux_step P2 6 (⟨N0, N1, N1, N0, N0, N0, N2, N0, N2⟩ : Grid) P2 [M00, M10, M11, M12, M21] rfl rfl
    (collectScores_cons v211000202 (collectScores_cons v011200202 (collectScores_cons v011020202 (collectScores_cons v011002202 (collectScores_cons t011000222 collectScores_nil))))) rfl

theorem v010100202 : readBoardAux P2 7 (⟨N0, N1, N0, N1, N0, N0, N2, N0, N2⟩ : Grid) P2 = some (ZP, some M00) :=
  readBoardAux_step P2 6 (⟨N0, N1, N0, N1, N0, N0, N2, N0, N2⟩ : Grid) P2 [M00, M02, M11, M12, M21] rfl rfl
    (collectScores_cons v210100202 (collectScores_cons v012100202 (collectScores_cons v010120202 (collectScores_cons v010102202 (collectScores_cons t010100222 collectScores_nil))))) rfl

theorem v010010202 : readBoardAux P2 7 (⟨N0, N1, N0, N0, N1, N0, N2, N0, N2⟩ : Grid) P2 = some (ZP, some M21) :=
  readBoardAux_step P2 6 (⟨N0, N1, N0, N0, N1, N0, N2, N0, N2⟩ : Grid) P2 [M00, M02, M10, M12, M21] rfl rfl
    (collectScores_cons v210010202 (collectScores_cons v012010202 (collectScores_cons v010210202 (collectScores_cons v010012202 (collectScores_cons t010010222 collectScores_nil))))) rfl

theorem v010001202 : readBoardAux P2 7 (⟨N0, N1, N0, N0, N0, N1, N2, N0, N2⟩ : Grid) P2 = some (ZP, some M00) :=
  readBoardAux_step P2 6 (⟨N0, N1, N0, N0, N0, N1, N2, N0, N2⟩ : Grid) P2 [M00, M02, M10, M11, M21] rfl rfl
    (collectScores_cons v210001202 (collectScores_cons v012001202 (collectScores_cons v010201202 (collectScores_cons v010021202 (collectScores_cons t010001222 collectScores_nil))))) rfl

theorem v010000212 : readBoardAux P2 7 (⟨N0, N1, N0, N0, N0, N0, N2, N1, N2⟩ : Grid) P2 = some (ZP, some M11) :=
  readBoardAux_step P2 6 (⟨N0, N1, N0, N0, N0, N0, N2, N1, N2⟩ : Grid) P2 [M00, M02, M10, M11, M12] rfl rfl
    (collectScores_cons v210000212 (collectScores_cons v012000212 (collectScores_cons v010200212 (collectScores_cons v010020212 (collectScores_cons v010002212 collectScores_nil))))) rfl

theorem v010000202 : readBoardAux P2 8 (⟨N0, N1, N0, N0, N0, N0, N2, N0, N2⟩ : Grid) P1 = some (ZP, some M00) :=
  readBoardAux_step P2 7 (⟨N0, N1, N0, N0, N0, N0, N2, N0, N2⟩ : Grid) P1 [M00, M02, M10, M11, M12, M21] rfl rfl
    (collectScores_cons v110000202 (collectScores_cons v011000202 (collectScores_cons v010100202 (collectScores_cons v010010202 (collectScores_cons v010001202 (collectScores_cons v010000212 collectScores_nil)))))) rfl

theorem v010000200 : readBoardAux P2 9 (⟨N0, N1, N0, N0, N0, N0, N2, N0, N0⟩ : Grid) P2 = some (ZP, some M00) :=
  readBoardAux_step P2 8 (⟨N0, N1, N0, N0, N0, N0, N2, N0, N0⟩ : Grid) P2 [M00, M02, M10, M11, M12, M21, M22] rfl rfl
    (collectScores_cons v210000200 (collectScores_cons v012000200 (collectScores_cons v010200200 (collectScores_cons v010020200 (collectScores_cons v010002200 (collectScores_cons v010000220 (collectScores_cons v010000202 collectScores_nil))))))) rfl

theorem t001100222 : readBoardAux P2 6 (⟨N0, N0, N1, N1, N0, N0, N2, N2, N2⟩ : Grid) P1 = some (ZP, none) :=
  rfl

theorem v001100220 : readBoardAux P2 7 (⟨N0, N0, N1, N1, N0, N0, N2, N2, N0⟩ : Grid) P2 = some (ZP, some M01) :=
  readBoardAux_step P2 6 (⟨N0, N0, N1, N1, N0, N0, N2, N2, N0⟩ : Grid) P2 [M00, M01, M11, M12, M22] rfl rfl
    (collectScores_cons v201100220 (collectScores_cons v021100220 (collectScores_cons v001120220 (collectScores_cons v001102220 (collectScores_cons t001100222 collectScores_nil))))) rfl

theorem t001010222 : readBoardAux P2 6 (⟨N0, N0, N1, N0, N1, N0, N2, N2, N2⟩ : Grid) P1 = some (ZP, none) :=
  rfl

theorem v001010220 : readBoardAux P2 7 (⟨N0, N0, N1, N0, N1, N0, N2, N2, N0⟩ : Grid) P2 = some (ZP, some M00) :=
  readBoardAux_step P2 6 (⟨N0, N0, N1, N0, N1, N0, N2, N2, N0⟩ : Grid) P2 [M00, M01, M10, M12, M22] rfl rfl
    (collectScores_cons v201010220 (collectScores_cons v021010220 (collectScores_cons v001210220 (collectScores_cons v001012220 (collectScores_cons t001010222 collectScores_nil))))) rfl

theorem t001001222 : readBoardAux P2 6 (⟨N0, N0, N1, N0, N0, N1, N2, N2, N2⟩ : Grid) P1 = some (ZP, none) :=
  rfl

theorem v001001220 : readBoardAux P2 7 (⟨N0, N0, N1, N0, N0, N1, N2, N2, N0⟩ : Grid) P2 = some (ZP, some M22) :=
  readBoardAux_step P2 6 (⟨N0, N0, N1, N0, N0, N1, N2, N2, N0⟩ : Grid) P2 [M00, M01, M10, M11, M22] rfl rfl
    (collectScores_cons v201001220 (collectScores_cons v021001220 (collectScores_cons v001201220 (collectScores_cons v001021220 (collectScores_cons t001001222 collectScores_nil))))) rfl

theorem v001000221 : readBoardAux P2 7 (⟨N0, N0, N1, N0, N0, N0, N2, N2, N1⟩ : Grid) P2 = some (ZM, some M00) :=
  readBoardAux_step P2 6 (⟨N0, N0, N1, N0, N0, N0, N2, N2, N1⟩ : Grid) P2 [M00, M01, M10, M11, M12] rfl rfl
    (collectScores_cons v201000221 (collectScores_cons v021000221 (collectScores_cons v001200221 (collectScores_cons v001020221 (collectScores_cons v001002221 collectScores_nil))))) rfl

theorem v001000220 : readBoardAux P2 8 (⟨N0, N0, N1, N0, N0, N0, N2, N2, N0⟩ : Grid) P1 = some (ZM, some M22) :=
  readBoardAux_step P2 7 (⟨N0, N0, N1, N0, N0, N0, N2, N2, N0⟩ : Grid) P1 [M00, M01, M10, M11, M12, M22] rfl rfl
    (collectScores_cons v101000220 (collectScores_cons v011000220 (collectScores_cons v001100220 (collectScores_cons v001010220 (collectScores_cons v001001220 (collectScores_cons v001000221 collectScores_nil)))))) rfl

theorem v001100202 : readBoardAux P2 7 (⟨N0, N0, N1, N1, N0, N0, N2, N0, N2⟩ : Grid) P2 = some (ZP, some M00) :=
  readBoardAux_step P2 6 (⟨N0, N0, N1, N1, N0, N0, N2, N0, N2⟩ : Grid) P2 [M00, M01, M11, M12, M21] rfl rfl
    (collectScores_cons v201100202 (collectScores_cons v021100202 (collectScores_cons v001120202 (collectScores_cons v001102202 (collectScores_cons t001100222 collectScores_nil))))) rfl

theorem v001010202 : readBoardAux P2 7 (⟨N0, N0, N1, N0, N1, N0, N2, N0, N2⟩ : Grid) P2 = some (ZP, some M00) :=
  readBoardAux_step P2 6 (⟨N0, N0, N1, N0, N1, N0, N2, N0, N2⟩ : Grid) P2 [M00, M01, M10, M12, M21] rfl rfl
    (collectScores_cons v201010202 (collectScores_cons v021010202 (collectScores_cons v001210202 (collectScores_cons v001012202 (collectScores_cons t001010222 collectScores_nil))))) rfl

theorem v001001202 : readBoardAux P2 7 (⟨N0, N0, N1, N0, N0, N1, N2, N0, N2⟩ : Grid) P2 = some (ZP, some M00) :=
  readBoardAux_step P2 6 (⟨N0, N0, N1, N0, N0, N1, N2, N0, N2⟩ : Grid) P2 [M00, M01, M10, M11, M21] rfl rfl
    (collectScores_cons v201001202 (collectScores_cons v021001202 (collectScores_cons v001201202 (collectScores_cons v001021202 (collectScores_cons t001001222 collectScores_nil))))) rfl

theorem v001000212 : readBoardAux P2 7 (⟨N0, N0, N1, N0, N0, N0, N2, N1, N2⟩ : Grid) P2 = some (ZP, some M00) :=
  readBoardAux_step P2 6 (⟨N0, N0, N1, N0, N0, N0, N2, N1, N2⟩ : Grid) P2 [M00, M01, M10, M11, M12] rfl rfl
    (collectScores_cons v201000212 (collectScores_cons v021000212 (collectScores_cons v001200212 (collectScores_cons v001020212 (collectScores_cons v001002212 collectScores_nil))))) rfl

theorem v001000202 : readBoardAux P2 8 (⟨N0, N0, N1, N0, N0, N0, N2, N0, N2⟩ : Grid) P1 = some (ZP, some M00) :=
  readBoardAux_step P2 7 (⟨N0, N0, N1, N0, N0, N0, N2, N0, N2⟩ : Grid) P1 [M00, M01, M10, M11, M12, M21] rfl rfl
    (collectScores_cons v101000202 (collectScores_cons v011000202 (collectScores_cons v001100202 (collectScores_cons v001010202 (collectScores_cons v001001202 (collectScores_cons v001000212 collectScores_nil)))))) rfl

theorem v001000200 : readBoardAux P2 9 (⟨N0, N0, N1, N0, N0, N0, N2, N0, N0⟩ : Grid) P2 = some (ZP, some M00) :=
  readBoardAux_step P2 8 (⟨N0, N0, N1, N0, N0, N0, N2, N0, N0⟩ : Grid) P2 [M00, M01, M10, M11, M12, M21, M22] rfl rfl
    (collectScores_cons v201000200 (collectScores_cons v021000200 (collectScores_cons v001200200 (collectScores_cons v001020200 (collectScores_cons v001002200 (collectScores_cons v001000220 (collectScores_cons v001000202 collectScores_nil))))))) rfl

theorem t000110222 : readBoardAux P2 6 (⟨N0, N0, N0, N1, N1, N0, N2, N2, N2⟩ : Grid) P1 = some (ZP, none) :=
  rfl

theorem v000110220 : readBoardAux P2 7 (⟨N0, N0, N0, N1, N1, N0, N2, N2, N0⟩ : Grid) P2 = some (ZP, some M22) :=
  readBoardAux_step P2 6 (⟨N0, N0, N0, N1, N1, N0, N2, N2, N0⟩ : Grid) P2 [M00, M01, M02, M12, M22] rfl rfl
    (collectScores_cons v200110220 (collectScores_cons v020110220 (collectScores_cons v002110220 (collectScores_cons v000112220 (collectScores_cons t000110222 collectScores_nil))))) rfl

theorem t000101222 : readBoardAux P2 6 (⟨N0, N0, N0, N1, N0, N1, N2, N2, N2⟩ : Grid) P1 = some (ZP, none) :=
  rfl

theorem v000101220 : readBoardAux P2 7 (⟨N0, N0, N0, N1, N0, N1, N2, N2, N0⟩ : Grid) P2 = some (ZP, some M11) :=
  readBoardAux_step P2 6 (⟨N0, N0, N0, N1, N0, N1, N2, N2, N0⟩ : Grid) P2 [M00, M01, M02, M11, M22] rfl rfl
    (collectScores_cons v200101220 (collectScores_cons v020101220 (collectScores_cons v002101220 (collectScores_cons v000121220 (collectScores_cons t000101222 collectScores_nil))))) rfl

theorem v000100221 : readBoardAux P2 7 (⟨N0, N0, N0, N1, N0, N0, N2, N2, N1⟩ : Grid) P2 = some (ZP, some M11) :=
  readBoardAux_step P2 6 (⟨N0, N0, N0, N1, N0, N0, N2, N2, N1⟩ : Grid) P2 [M00, M01, M02, M11, M12] rfl rfl
    (collectScores_cons v200100221 (collectScores_cons v020100221 (collectScores_cons v002100221 (collectScores_cons v000120221 (collectScores_cons v000102221 collectScores_nil))))) rfl

theorem v000100220 : readBoardAux P2 8 (⟨N0, N0, N0, N1, N0, N0, N2, N2, N0⟩ : Grid) P1 = some (ZP, some M00) :=
  readBoardAux_step P2 7 (⟨N0, N0, N0, N1, N0, N0, N2, N2, N0⟩ : Grid) P1 [M00, M01, M02, M11, M12, M22] rfl rfl
    (collectScores_cons v100100220 (collectScores_cons v010100220 (collectScores_cons v001100220 (collectScores_cons v000110220 (collectScores_cons v000101220 (collectScores_cons v000100221 collectScores_nil)))))) rfl

theorem v000110202 : readBoardAux P2 7 (⟨N0, N0, N0, N1, N1, N0, N2, N0, N2⟩ : Grid) P2 = some (ZP, some M12) :=
  readBoardAux_step P2 6 (⟨N0, N0, N0, N1, N1, N0, N2, N0, N2⟩ : Grid) P2 [M00, M01, M02, M12, M21] rfl rfl
    (collectScores_cons v200110202 (collectScores_cons v020110202 (collectScores_cons v002110202 (collectScores_cons v000112202 (collectScores_cons t000110222 collectScores_nil))))) rfl

theorem v000101202 : readBoardAux P2 7 (⟨N0, N0, N0, N1, N0, N1, N2, N0, N2⟩ : Grid) P2 = some (ZP, some M11) :=
  readBoardAux_step P2 6 (⟨N0, N0, N0, N1, N0, N1, N2, N0, N2⟩ : Grid) P2 [M00, M01, M02, M11, M21] rfl rfl
    (collectScores_cons v200101202 (collectScores_cons v020101202 (collectScores_cons v002101202 (collectScores_cons v000121202 (collectScores_cons t000101222 collectScores_nil))))) rfl

theorem v000100212 : readBoardAux P2 7 (⟨N0, N0, N0, N1, N0, N0, N2, N1, N2⟩ : Grid) P2 = some (ZP, some M02) :=
  readBoardAux_step P2 6 (⟨N0, N0, N0, N1, N0, N0, N2, N1, N2⟩ : Grid) P2 [M00, M01, M02, M11, M12] rfl rfl
    (collectScores_cons v200100212 (collectScores_cons v020100212 (collectScores_cons v002100212 (collectScores_cons v000120212 (collectScores_cons v000102212 collectScores_nil))))) rfl

theorem v000100202 : readBoardAux P2 8 (⟨N0, N0, N0, N1, N0, N0, N2, N0, N2⟩ : Grid) P1 = some (ZP, some M00) :=
  readBoardAux_step P2 7 (⟨N0, N0, N0, N1, N0, N0, N2, N0, N2⟩ : Grid) P1 [M00, M01, M02, M11, M12, M21] rfl rfl
    (collectScores_cons v100100202 (collectScores_cons v010100202 (collectScores_cons v001100202 (collectScores_cons v000110202 (collectScores_cons v000101202 (collectScores_cons v000100212 collectScores_nil)))))) rfl

theorem v000100200 : readBoardAux P2 9 (⟨N0, N0, N0, N1, N0, N0, N2, N0, N0⟩ : Grid) P2 = some (ZP, some M11) :=
  readBoardAux_step P2 8 (⟨N0, N0, N0, N1, N0, N0, N2, N0, N0⟩ : Grid) P2 [M00, M01, M02, M11, M12, M21, M22] rfl rfl
    (collectScores_cons v200100200 (collectScores_cons v020100200 (collectScores_cons v002100200 (collectScores_cons v000120200 (collectScores_cons v000102200 (collectScores_cons v000100220 (collectScores_cons v000100202 collectScores_nil))))))) rfl

theorem t000011222 : readBoardAux P2 6 (⟨N0, N0, N0, N0, N1, N1, N2, N2, N2⟩ : Grid) P1 = some (ZP, none) :=
  rfl

theorem v000011220 : readBoardAux P2 7 (⟨N0, N0, N0, N0, N1, N1, N2, N2, N0⟩ : Grid) P2 = some (ZP, some M10) :=
  readBoardAux_step P2 6 (⟨N0, N0, N0, N0, N1, N1, N2, N2, N0⟩ : Grid) P2 [M00, M01, M02, M10, M22] rfl rfl
    (collectScores_cons v200011220 (collectScores_cons v020011220 (collectScores_cons v002011220 (collectScores_cons v000211220 (collectScores_cons t000011222 collectScores_nil))))) rfl

theorem v000010221 : readBoardAux P2 7 (⟨N0, N0, N0, N0, N1, N0, N2, N2, N1⟩ : Grid) P2 = some (Z0, some M00) :=
  readBoardAux_step P2 6 (⟨N0, N0, N0, N0, N1, N0, N2, N2, N1⟩ : Grid) P2 [M00, M01, M02, M10, M12] rfl rfl
    (collectScores_cons v200010221 (collectScores_cons v020010221 (collectScores_cons v002010221 (collectScores_cons v000210221 (collectScores_cons v000012221 collectScores_nil))))) rfl

theorem v000010220 : readBoardAux P2 8 (⟨N0, N0, N0, N0, N1, N0, N2, N2, N0⟩ : Grid) P1 = some (Z0, some M22) :=
  readBoardAux_step P2 7 (⟨N0, N0, N0, N0, N1, N0, N2, N2, N0⟩ : Grid) P1 [M00, M01, M02, M10, M12, M22] rfl rfl
    (collectScores_cons v100010220 (collectScores_cons v010010220 (collectScores_cons v001010220 (collectScores_cons v000110220 (collectScores_cons v000011220 (collectScores_cons v000010221 collectScores_nil)))))) rfl

theorem v000011202 : readBoardAux P2 7 (⟨N0, N0, N0, N0, N1, N1, N2, N0, N2⟩ : Grid) P2 = some (ZP, some M10) :=
  readBoardAux_step P2 6 (⟨N0, N0, N0, N0, N1, N1, N2, N0, N2⟩ : Grid) P2 [M00, M01, M02, M10, M21] rfl rfl
    (collectScores_cons v200011202 (collectScores_cons v020011202 (collectScores_cons v002011202 (collectScores_cons v000211202 (collectScores_cons t000011222 collectScores_nil))))) rfl

theorem v000010212 : readBoardAux P2 7 (⟨N0, N0, N0, N0, N1, N0, N2, N1, N2⟩ : Grid) P2 = some (Z0, some M01) :=
  readBoardAux_step P2 6 (⟨N0, N0, N0, N0, N1, N0, N2, N1, N2⟩ : Grid) P2 [M00, M01, M02, M10, M12] rfl rfl
    (collectScores_cons v200010212 (collectScores_cons v020010212 (collectScores_cons v002010212 (collectScores_cons v000210212 (collectScores_cons v000012212 collectScores_nil))))) rfl

theorem v000010202 : readBoardAux P2 8 (⟨N0, N0, N0, N0, N1, N0, N2, N0, N2⟩ : Grid) P1 = some (Z0, some M21) :=
  readBoardAux_step P2 7 (⟨N0, N0, N0, N0, N1, N0, N2, N0, N2⟩ : Grid) P1 [M00, M01, M02, M10, M12, M21] rfl rfl
    (collectScores_cons v100010202 (collectScores_cons v010010202 (collectScores_cons v001010202 (collectScores_cons v000110202 (collectScores_cons v000011202 (collectScores_cons v000010212 collectScores_nil)))))) rfl

theorem v000010200 : readBoardAux P2 9 (⟨N0, N0, N0, N0, N1, N0, N2, N0, N0⟩ : Grid) P2 = some (Z0, some M00) :=
  readBoardAux_step P2 8 (⟨N0, N0, N0, N0, N1, N0, N2, N0, N0⟩ : Grid) P2 [M00, M01, M02, M10, M12, M21, M22] rfl rfl
    (collectScores_cons v200010200 (collectScores_cons v020010200 (collectScores_cons v002010200 (collectScores_cons v000210200 (collectScores_cons v000012200 (collectScores_cons v000010220 (collectScores_cons v000010202 collectScores_nil))))))) rfl

theorem v000001221 : readBoardAux P2 7 (⟨N0, N0, N0, N0, N0, N1, N2, N2, N1⟩ : Grid) P2 = some (ZM, some M00) :=
  readBoardAux_step P2 6 (⟨N0, N0, N0, N0, N0, N1, N2, N2, N1⟩ : Grid) P2 [M00, M01, M02, M10, M11] rfl rfl
    (collectScores_cons v200001221 (collectScores_cons v020001221 (collectScores_cons v002001221 (collectScores_cons v000201221 (collectScores_cons v000021221 collectScores_nil))))) rfl

theorem v000001220 : readBoardAux P2 8 (⟨N0, N0, N0, N0, N0, N1, N2, N2, N0⟩ : Grid) P1 = some (ZM, some M22) :=
  readBoardAux_step P2 7 (⟨N0, N0, N0, N0, N0, N1, N2, N2, N0⟩ : Grid) P1 [M00, M01, M02, M10, M11, M22] rfl rfl
    (collectScores_cons v100001220 (collectScores_cons v010001220 (collectScores_cons v001001220 (collectScores_cons v000101220 (collectScores_cons v000011220 (collectScores_cons v000001221 collectScores_nil)))))) rfl

theorem v000001212 : readBoardAux P2 7 (⟨N0, N0, N0, N0, N0, N1, N2, N1, N2⟩ : Grid) P2 = some (ZP, some M00) :=
  readBoardAux_step P2 6 (⟨N0, N0, N0, N0, N0, N1, N2, N1, N2⟩ : Grid) P2 [M00, M01, M02, M10, M11] rfl rfl
    (collectScores_cons v200001212 (collectScores_cons v020001212 (collectScores_cons v002001212 (collectScores_cons v000201212 (collectScores_cons v000021212 collectScores_nil))))) rfl

theorem v000001202 : readBoardAux P2 8 (⟨N0, N0, N0, N0, N0, N1, N2, N0, N2⟩ : Grid) P1 = some (ZP, some M00) :=
  readBoardAux_step P2 7 (⟨N0, N0, N0, N0, N0, N1, N2, N0, N2⟩ : Grid) P1 [M00, M01, M02, M10, M11, M21] rfl rfl
    (collectScores_cons v100001202 (collectScores_cons v010001202 (collectScores_cons v001001202 (collectScores_cons v000101202 (collectScores_cons v000011202 (collectScores_cons v000001212 collectScores_nil)))))) rfl

theorem v000001200 : readBoardAux P2 9 (⟨N0, N0, N0, N0, N0, N1, N2, N0, N0⟩ : Grid) P2 = some (ZP, some M00) :=
  readBoardAux_step P2 8 (⟨N0, N0, N0, N0, N0, N1, N2, N0, N0⟩ : Grid) P2 [M00, M01, M02, M10, M11, M21, M22] rfl rfl
    (collectScores_cons v200001200 (collectScores_cons v020001200 (collectScores_cons v002001200 (collectScores_cons v000201200 (collectScores_cons v000021200 (collectScores_cons v000001220 (collectScores_cons v000001202 collectScores_nil))))))) rfl

theorem v000000212 : readBoardAux P2 8 (⟨N0, N0, N0, N0, N0, N0, N2, N1, N2⟩ : Grid) P1 = some (Z0, some M11) :=
  readBoardAux_step P2 7 (⟨N0, N0, N0, N0, N0, N0, N2, N1, N2⟩ : Grid) P1 [M00, M01, M02, M10, M11, M12] rfl rfl
    (collectScores_cons v100000212 (collectScores_cons v010000212 (collectScores_cons v001000212 (collectScores_cons v000100212 (collectScores_cons v000010212 (collectScores_cons v000001212 collectScores_nil)))))) rfl

theorem v000000210 : readBoardAux P2 9 (⟨N0, N0, N0, N0, N0, N0, N2, N1, N0⟩ : Grid) P2 = some (ZP, some M00) :=
  readBoardAux_step P2 8 (⟨N0, N0, N0, N0, N0, N0, N2, N1, N0⟩ : Grid) P2 [M00, M01, M02, M10, M11, M12, M22] rfl rfl
    (collectScores_cons v200000210 (collectScores_cons v020000210 (collectScores_cons v002000210 (collectScores_cons v000200210 (collectScores_cons v000020210 (collectScores_cons v000002210 (collectScores_cons v000000212 collectScores_nil))))))) rfl

theorem v000000221 : readBoardAux P2 8 (⟨N0, N0, N0, N0, N0, N0, N2, N2, N1⟩ : Grid) P1 = some (ZM, some M02) :=
  readBoardAux_step P2 7 (⟨N0, N0, N0, N0, N0, N0, N2, N2, N1⟩ : Grid) P1 [M00, M01, M02, M10, M11, M12] rfl rfl
    (collectScores_cons v100000221 (collectScores_cons v010000221 (collectScores_cons v001000221 (collectScores_cons v000100221 (collectScores_cons v000010221 (collectScores_cons v000001221 collectScores_nil)))))) rfl

theorem v000000201 : readBoardAux P2 9 (⟨N0, N0, N0, N0, N0, N0, N2, N0, N1⟩ : Grid) P2 = some (ZP, some M00) :=
  readBoardAux_step P2 8 (⟨N0, N0, N0, N0, N0, N0, N2, N0, N1⟩ : Grid) P2 [M00, M01, M02, M10, M11, M12, M21] rfl rfl
    (collectScores_cons v200000201 (collectScores_cons v020000201 (collectScores_cons v002000201 (collectScores_cons v000200201 (collectScores_cons v000020201 (collectScores_cons v000002201 (collectScores_cons v000000221 collectScores_nil))))))) rfl

theorem v000000200 : readBoardAux P2 10 (⟨N0, N0, N0, N0, N0, N0, N2, N0, N0⟩ : Grid) P1 = some (Z0, some M11) :=
  readBoardAux_step P2 9 (⟨N0, N0, N0, N0, N0, N0, N2, N0, N0⟩ : Grid) P1 [M00, M01, M02, M10, M11, M12, M21, M22] rfl rfl
    (collectScores_cons v100000200 (collectScores_cons v010000200 (collectScores_cons v001000200 (collectScores_cons v000100200 (collectScores_cons v000010200 (collectScores_cons v000001200 (collectScores_cons v000000210 (collectScores_cons v000000201 collectScores_nil)))))))) rfl

theorem v110000022 : readBoardAux P2 7 (⟨N1, N1, N0, N0, N0, N0, N0, N2, N2⟩ : Grid) P2 = some (ZP, some M02) :=
  readBoardAux_step P2 6 (⟨N1, N1, N0, N0, N0, N0, N0, N2, N2⟩ : Grid) P2 [M02, M10, M11, M12, M20] rfl rfl
    (collectScores_cons v112000022 (collectScores_cons v110200022 (collectScores_cons v110020022 (collectScores_cons v110002022 (collectScores_cons t110000222 collectScores_nil))))) rfl

theorem v101000022 : readBoardAux P2 7 (⟨N1, N0, N1, N0, N0, N0, N0, N2, N2⟩ : Grid) P2 = some (ZP, some M01) :=
  readBoardAux_step P2 6 (⟨N1, N0, N1, N0, N0, N0, N0, N2, N2⟩ : Grid) P2 [M01, M10, M11, M12, M20] rfl rfl
    (collectScores_cons v121000022 (collectScores_cons v101200022 (collectScores_cons v101020022 (collectScores_cons v101002022 (collectScores_cons t101000222 collectScores_nil))))) rfl

theorem v100100022 : readBoardAux P2 7 (⟨N1, N0, N0, N1, N0, N0, N0, N2, N2⟩ : Grid) P2 = some (ZP, some M20) :=
  readBoardAux_step P2 6 (⟨N1, N0, N0, N1, N0, N0, N0, N2, N2⟩ : Grid) P2 [M01, M02, M11, M12, M20] rfl rfl
    (collectScores_cons v120100022 (collectScores_cons v102100022 (collectScores_cons v100120022 (collectScores_cons v100102022 (collectScores_cons t100100222 collectScores_nil))))) rfl

theorem v100010022 : readBoardAux P2 7 (⟨N1, N0, N0, N0, N1, N0, N0, N2, N2⟩ : Grid) P2 = some (ZP, some M02) :=
  readBoardAux_step P2 6 (⟨N1, N0, N0, N0, N1, N0, N0, N2, N2⟩ : Grid) P2 [M01, M02, M10, M12, M20] rfl rfl
    (collectScores_cons v120010022 (collectScores_cons v102010022 (collectScores_cons v100210022 (collectScores_cons v100012022 (collectScores_cons t100010222 collectScores_nil))))) rfl

theorem v100001022 : readBoardAux P2 7 (⟨N1, N0, N0, N0, N0, N1, N0, N2, N2⟩ : Grid) P2 = some (ZP, some M01) :=
  readBoardAux_step P2 6 (⟨N1, N0, N0, N0, N0, N1, N0, N2, N2⟩ : Grid) P2 [M01, M02, M10, M11, M20] rfl rfl
    (collectScores_cons v120001022 (collectScores_cons v102001022 (collectScores_cons v100201022 (collectScores_cons v100021022 (collectScores_cons t100001222 collectScores_nil))))) rfl

theorem v100000122 : readBoardAux P2 7 (⟨N1, N0, N0, N0, N0, N0, N1, N2, N2⟩ : Grid) P2 = some (ZM, some M01) :=
  readBoardAux_step P2 6 (⟨N1, N0, N0, N0, N0, N0, N1, N2, N2⟩ : Grid) P2 [M01, M02, M10, M11, M12] rfl rfl
    (collectScores_cons v120000122 (collectScores_cons v102000122 (collectScores_cons v100200122 (collectScores_cons v100020122 (collectScores_cons v100002122 collectScores_nil))))) rfl

theorem v100000022 : readBoardAux P2 8 (⟨N1, N0, N0, N0, N0, N0, N0, N2, N2⟩ : Grid) P1 = some (ZM, some M20) :=
  readBoardAux_step P2 7 (⟨N1, N0, N0, N0, N0, N0, N0, N2, N2⟩ : Grid) P1 [M01, M02, M10, M11, M12, M20] rfl rfl
    (collectScores_cons v110000022 (collectScores_cons v101000022 (collectScores_cons v100100022 (collectScores_cons v100010022 (collectScores_cons v100001022 (collectScores_cons v100000122 collectScores_nil)))))) rfl

theorem v100000020 : readBoardAux P2 9 (⟨N1, N0, N0, N0, N0, N0, N0, N2, N0⟩ : Grid) P2 = some (ZP, some M20) :=
  readBoardAux_step P2 8 (⟨N1, N0, N0, N0, N0, N0, N0, N2, N0⟩ : Grid) P2 [M01, M02, M10, M11, M12, M20, M22] rfl rfl
    (collectScores_cons v120000020 (collectScores_cons v102000020 (collectScores_cons v100200020 (collectScores_cons v100020020 (collectScores_cons v100002020 (collectScores_cons v100000220 (collectScores_cons v100000022 collectScores_nil))))))) rfl

theorem v011000022 : readBoardAux P2 7 (⟨N0, N1, N1, N0, N0, N0, N0, N2, N2⟩ : Grid) P2 = some (ZP, some M00) :=
  readBoardAux_step P2 6 (⟨N0, N1, N1, N0, N0, N0, N0, N2, N2⟩ : Grid) P2 [M00, M10, M11, M12, M20] rfl rfl
    (collectScores_cons v211000022 (collectScores_cons v011200022 (collectScores_cons v011020022 (collectScores_cons v011002022 (collectScores_cons t011000222 collectScores_nil))))) rfl

theorem v010100022 : readBoardAux P2 7 (⟨N0, N1, N0, N1, N0, N0, N0, N2, N2⟩ : Grid) P2 = some (ZP, some M00) :=
  readBoardAux_step P2 6 (⟨N0, N1, N0, N1, N0, N0, N0, N2, N2⟩ : Grid) P2 [M00, M02, M11, M12, M20] rfl rfl
    (collectScores_cons v210100022 (collectScores_cons v012100022 (collectScores_cons v010120022 (collectScores_cons v010102022 (collectScores_cons t010100222 collectScores_nil))))) rfl

theorem v010010022 : readBoardAux P2 7 (⟨N0, N1, N0, N0, N1, N0, N0, N2, N2⟩ : Grid) P2 = some (ZP, some M02) :=
  readBoardAux_step P2 6 (⟨N0, N1, N0, N0, N1, N0, N0, N2, N2⟩ : Grid) P2 [M00, M02, M10, M12, M20] rfl rfl
    (collectScores_cons v210010022 (collectScores_cons v012010022 (collectScores_cons v010210022 (collectScores_cons v010012022 (collectScores_cons t010010222 collectScores_nil))))) rfl

theorem v010001022 : readBoardAux P2 7 (⟨N0, N1, N0, N0, N0, N1, N0, N2, N2⟩ : Grid) P2 = some (ZP, some M00) :=
  readBoardAux_step P2 6 (⟨N0, N1, N0, N0, N0, N1, N0, N2, N2⟩ : Grid) P2 [M00, M02, M10, M11, M20] rfl rfl
    (collectScores_cons v210001022 (collectScores_cons v012001022 (collectScores_cons v010201022 (collectScores_cons v010021022 (collectScores_cons t010001222 collectScores_nil))))) rfl

theorem v010000122 : readBoardAux P2 7 (⟨N0, N1, N0, N0, N0, N0, N1, N2, N2⟩ : Grid) P2 = some (Z0, some M00) :=
  readBoardAux_step P2 6 (⟨N0, N1, N0, N0, N0, N0, N1, N2, N2⟩ : Grid) P2 [M00, M02, M10, M11, M12] rfl rfl
    (collectScores_cons v210000122 (collectScores_cons v012000122 (collectScores_cons v010200122 (collectScores_cons v010020122 (collectScores_cons v010002122 collectScores_nil))))) rfl

theorem v010000022 : readBoardAux P2 8 (⟨N0, N1, N0, N0, N0, N0, N0, N2, N2⟩ : Grid) P1 = some (Z0, some M20) :=
  readBoardAux_step P2 7 (⟨N0, N1, N0, N0, N0, N0, N0, N2, N2⟩ : Grid) P1 [M00, M02, M10, M11, M12, M20] rfl rfl
    (collectScores_cons v110000022 (collectScores_cons v011000022 (collectScores_cons v010100022 (collectScores_cons v010010022 (collectScores_cons v010001022 (collectScores_cons v010000122 collectScores_nil)))))) rfl

theorem v010000020 : readBoardAux P2 9 (⟨N0, N1, N0, N0, N0, N0, N0, N2, N0⟩ : Grid) P2 = some (Z0, some M00) :=
  readBoardAux_step P2 8 (⟨N0, N1, N0, N0, N0, N0, N0, N2, N0⟩ : Grid) P2 [M00, M02, M10, M11, M12, M20, M22] rfl rfl
    (collectScores_cons v210000020 (collectScores_cons v012000020 (collectScores_cons v010200020 (collectScores_cons v010020020 (collectScores_cons v010002020 (collectScores_cons v010000220 (collectScores_cons v010000022 collectScores_nil))))))) rfl

theorem v001100022 : readBoardAux P2 7 (⟨N0, N0, N1, N1, N0, N0, N0, N2, N2⟩ : Grid) P2 = some (ZP, some M00) :=
  readBoardAux_step P2 6 (⟨N0, N0, N1, N1, N0, N0, N0, N2, N2⟩ : Grid) P2 [M00, M01, M11, M12, M20] rfl rfl
    (collectScores_cons v201100022 (collectScores_cons v021100022 (collectScores_cons v001120022 (collectScores_cons v001102022 (collectScores_cons t001100222 collectScores_nil))))) rfl

theorem v001010022 : readBoardAux P2 7 (⟨N0, N0, N1, N0, N1, N0, N0, N2, N2⟩ : Grid) P2 = some (ZP, some M20) :=
  readBoardAux_step P2 6 (⟨N0, N0, N1, N0, N1, N0, N0, N2, N2⟩ : Grid) P2 [M00, M01, M10, M12, M20] rfl rfl
    (collectScores_cons v201010022 (collectScores_cons v021010022 (collectScores_cons v001210022 (collectScores_cons v001012022 (collectScores_cons t001010222 collectScores_nil))))) rfl

theorem v001001022 : readBoardAux P2 7 (⟨N0, N0, N1, N0, N0, N1, N0, N2, N2⟩ : Grid) P2 = some (ZP, some M00) :=
  readBoardAux_step P2 6 (⟨N0, N0, N1, N0, N0, N1, N0, N2, N2⟩ : Grid) P2 [M00, M01, M10, M11, M20] rfl rfl
    (collectScores_cons v201001022 (collectScores_cons v021001022 (collectScores_cons v001201022 (collectScores_cons v001021022 (collectScores_cons t001001222 collectScores_nil))))) rfl

theorem v001000122 : readBoardAux P2 7 (⟨N0, N0, N1, N0, N0, N0, N1, N2, N2⟩ : Grid) P2 = some (ZP, some M11) :=
  readBoardAux_step P2 6 (⟨N0, N0, N1, N0, N0, N0, N1, N2, N2⟩ : Grid) P2 [M00, M01, M10, M11, M12] rfl rfl
    (collectScores_cons v201000122 (collectScores_cons v021000122 (collectScores_cons v001200122 (collectScores_cons v001020122 (collectScores_cons v001002122 collectScores_nil))))) rfl

theorem v001000022 : readBoardAux P2 8 (⟨N0, N0, N1, N0, N0, N0, N0, N2, N2⟩ : Grid) P1 = some (ZP, some M00) :=
  readBoardAux_step P2 7 (⟨N0, N0, N1, N0, N0, N0, N0, N2, N2⟩ : Grid) P1 [M00, M01, M10, M11, M12, M20] rfl rfl
    (collectScores_cons v101000022 (collectScores_cons v011000022 (collectScores_cons v001100022 (collectScores_cons v001010022 (collectScores_cons v001001022 (collectScores_cons v001000122 collectScores_nil)))))) rfl

theorem v001000020 : readBoardAux P2 9 (⟨N0, N0, N1, N0, N0, N0, N0, N2, N0⟩ : Grid) P2 = some (ZP, some M22) :=
  readBoardAux_step P2 8 (⟨N0, N0, N1, N0, N0, N0, N0, N2, N0⟩ : Grid) P2 [M00, M01, M10, M11, M12, M20, M22] rfl rfl
    (collectScores_cons v201000020 (collectScores_cons v021000020 (collectScores_cons v001200020 (collectScores_cons v001020020 (collectScores_cons v001002020 (collectScores_cons v001000220 (collectScores_cons v001000022 collectScores_nil))))))) rfl

theorem v000110022 : readBoardAux P2 7 (⟨N0, N0, N0, N1, N1, N0, N0, N2, N2⟩ : Grid) P2 = some (ZP, some M12) :=
  readBoardAux_step P2 6 (⟨N0, N0, N0, N1, N1, N0, N0, N2, N2⟩ : Grid) P2 [M00, M01, M02, M12, M20] rfl rfl
    (collectScores_cons v200110022 (collectScores_cons v020110022 (collectScores_cons v002110022 (collectScores_cons v000112022 (collectScores_cons t000110222 collectScores_nil))))) rfl

theorem v000101022 : readBoardAux P2 7 (⟨N0, N0, N0, N1, N0, N1, N0, N2, N2⟩ : Grid) P2 = some (ZP, some M11) :=
  readBoardAux_step P2 6 (⟨N0, N0, N0, N1, N0, N1, N0, N2, N2⟩ : Grid) P2 [M00, M01, M02, M11, M20] rfl rfl
    (collectScores_cons v200101022 (collectScores_cons v020101022 (collectScores_cons v002101022 (collectScores_cons v000121022 (collectScores_cons t000101222 collectScores_nil))))) rfl

theorem v000100122 : readBoardAux P2 7 (⟨N0, N0, N0, N1, N0, N0, N1, N2, N2⟩ : Grid) P2 = some (ZM, some M00) :=
  readBoardAux_step P2 6 (⟨N0, N0, N0, N1, N0, N0, N1, N2, N2⟩ : Grid) P2 [M00, M01, M02, M11, M12] rfl rfl
    (collectScores_cons v200100122 (collectScores_cons v020100122 (collectScores_cons v002100122 (collectScores_cons v000120122 (collectScores_cons v000102122 collectScores_nil))))) rfl

theorem v000100022 : readBoardAux P2 8 (⟨N0, N0, N0, N1, N0, N0, N0, N2, N2⟩ : Grid) P1 = some (ZM, some M20) :=
  readBoardAux_step P2 7 (⟨N0, N0, N0, N1, N0, N0, N0, N2, N2⟩ : Grid) P1 [M00, M01, M02, M11, M12, M20] rfl rfl
    (collectScores_cons v100100022 (collectScores_cons v010100022 (collectScores_cons v001100022 (collectScores_cons v000110022 (collectScores_cons v000101022 (collectScores_cons v000100122 collectScores_nil)))))) rfl

theorem v000100020 : readBoardAux P2 9 (⟨N0, N0, N0, N1, N0, N0, N0, N2, N0⟩ : Grid) P2 = some (ZP, some M11) :=
  readBoardAux_step P2 8 (⟨N0, N0, N0, N1, N0, N0, N0, N2, N0⟩ : Grid) P2 [M00, M01, M02, M11, M12, M20, M22] rfl rfl
    (collectScores_cons v200100020 (collectScores_cons v020100020 (collectScores_cons v002100020 (collectScores_cons v000120020 (collectScores_cons v000102020 (collectScores_cons v000100220 (collectScores_cons v000100022 collectScores_nil))))))) rfl

theorem v000011022 : readBoardAux P2 7 (⟨N0, N0, N0, N0, N1, N1, N0, N2, N2⟩ : Grid) P2 = some (ZP, some M20) :=
  readBoardAux_step P2 6 (⟨N0, N0, N0, N0, N1, N1, N0, N2, N2⟩ : Grid) P2 [M00, M01, M02, M10, M20] rfl rfl
    (collectScores_cons v200011022 (collectScores_cons v020011022 (collectScores_cons v002011022 (collectScores_cons v000211022 (collectScores_cons t000011222 collectScores_nil))))) rfl

theorem v000010122 : readBoardAux P2 7 (⟨N0, N0, N0, N0, N1, N0, N1, N2, N2⟩ : Grid) P2 = some (Z0, some M02) :=
  readBoardAux_step P2 6 (⟨N0, N0, N0, N0, N1, N0, N1, N2, N2⟩ : Grid) P2 [M00, M01, M02, M10, M12] rfl rfl
    (collectScores_cons v200010122 (collectScores_cons v020010122 (collectScores_cons v002010122 (collectScores_cons v000210122 (collectScores_cons v000012122 collectScores_nil))))) rfl

theorem v000010022 : readBoardAux P2 8 (⟨N0, N0, N0, N0, N1, N0, N0, N2, N2⟩ : Grid) P1 = some (Z0, some M20) :=
  readBoardAux_step P2 7 (⟨N0, N0, N0, N0, N1, N0, N0, N2, N2⟩ : Grid) P1 [M00, M01, M02, M10, M12, M20] rfl rfl
    (collectScores_cons v100010022 (collectScores_cons v010010022 (collectScores_cons v001010022 (collectScores_cons v000110022 (collectScores_cons v000011022 (collectScores_cons v000010122 collectScores_nil)))))) rfl

theorem v000010020 : readBoardAux P2 9 (⟨N0, N0, N0, N0, N1, N0, N0, N2, N0⟩ : Grid) P2 = some (Z0, some M00) :=
  readBoardAux_step P2 8 (⟨N0, N0, N0, N0, N1, N0, N0, N2, N0⟩ : Grid) P2 [M00, M01, M02, M10, M12, M20, M22] rfl rfl
    (collectScores_cons v200010020 (collectScores_cons v020010020 (collectScores_cons v002010020 (collectScores_cons v000210020 (collectScores_cons v000012020 (collectScores_cons v000010220 (collectScores_cons v000010022 collectScores_nil))))))) rfl

theorem v000001122 : readBoardAux P2 7 (⟨N0, N0, N0, N0, N0, N1, N1, N2, N2⟩ : Grid) P2 = some (ZP, some M11) :=
  readBoardAux_step P2 6 (⟨N0, N0, N0, N0, N0, N1, N1, N2, N2⟩ : Grid) P2 [M00, M01, M02, M10, M11] rfl rfl
    (collectScores_cons v200001122 (collectScores_cons v020001122 (collectScores_cons v002001122 (collectScores_cons v000201122 (collectScores_cons v000021122 collectScores_nil))))) rfl

theorem v000001022 : readBoardAux P2 8 (⟨N0, N0, N0, N0, N0, N1, N0, N2, N2⟩ : Grid) P1 = some (ZP, some M00) :=
  readBoardAux_step P2 7 (⟨N0, N0, N0, N0, N0, N1, N0, N2, N2⟩ : Grid) P1 [M00, M01, M02, M10, M11, M20] rfl rfl
    (collectScores_cons v100001022 (collectScores_cons v010001022 (collectScores_cons v001001022 (collectScores_cons v000101022 (collectScores_cons v000011022 (collectScores_cons v000001122 collectScores_nil)))))) rfl

theorem v000001020 : readBoardAux P2 9 (⟨N0, N0, N0, N0, N0, N1, N0, N2, N0⟩ : Grid) P2 = some (ZP, some M11) :=
  readBoardAux_step P2 8 (⟨N0, N0, N0, N0, N0, N1, N0, N2, N0⟩ : Grid) P2 [M00, M01, M02, M10, M11, M20, M22] rfl rfl
    (collectScores_cons v200001020 (collectScores_cons v020001020 (collectScores_cons v002001020 (collectScores_cons v000201020 (collectScores_cons v000021020 (collectScores_cons v000001220 (collectScores_cons v000001022 collectScores_nil))))))) rfl

theorem v000000122 : readBoardAux P2 8 (⟨N0, N0, N0, N0, N0, N0, N1, N2, N2⟩ : Grid) P1 = some (ZM, some M00) :=
  readBoardAux_step P2 7 (⟨N0, N0, N0, N0, N0, N0, N1, N2, N2⟩ : Grid) P1 [M00, M01, M02, M10, M11, M12] rfl rfl
    (collectScores_cons v100000122 (collectScores_cons v010000122 (collectScores_cons v001000122 (collectScores_cons v000100122 (collectScores_cons v000010122 (collectScores_cons v000001122 collectScores_nil)))))) rfl

theorem v000000120 : readBoardAux P2 9 (⟨N0, N0, N0, N0, N0, N0, N1, N2, N0⟩ : Grid) P2 = some (Z0, some M00) :=
  readBoardAux_step P2 8 (⟨N0, N0, N0, N0, N0, N0, N1, N2, N0⟩ : Grid) P2 [M00, M01, M02, M10, M11, M12, M22] rfl rfl
    (collectScores_cons v200000120 (collectScores_cons v020000120 (collectScores_cons v002000120 (collectScores_cons v000200120 (collectScores_cons v000020120 (collectScores_cons v000002120 (collectScores_cons v000000122 collectScores_nil))))))) rfl

theorem v000000021 : readBoardAux P2 9 (⟨N0, N0, N0, N0, N0, N0, N0, N2, N1⟩ : Grid) P2 = some (Z0, some M00) :=
  readBoardAux_step P2 8 (⟨N0, N0, N0, N0, N0, N0, N0, N2, N1⟩ : Grid) P2 [M00, M01, M02, M10, M11, M12, M20] rfl rfl
    (collectScores_cons v200000021 (collectScores_cons v020000021 (collectScores_cons v002000021 (collectScores_cons v000200021 (collectScores_cons v000020021 (collectScores_cons v000002021 (collectScores_cons v000000221 collectScores_nil))))))) rfl

theorem v000000020 : readBoardAux P2 10 (⟨N0, N0, N0, N0, N0, N0, N0, N2, N0⟩ : Grid) P1 = some (Z0, some M01) :=
  readBoardAux_step P2 9 (⟨N0, N0, N0, N0, N0, N0, N0, N2, N0⟩ : Grid) P1 [M00, M01, M02, M10, M11, M12, M20, M22] rfl rfl
    (collectScores_cons v100000020 (collectScores_cons v010000020 (collectScores_cons v001000020 (collectScores_cons v000100020 (collectScores_cons v000010020 (collectScores_cons v000001020 (collectScores_cons v000000120 (collectScores_cons v000000021 collectScores_nil)))))))) rfl

theorem v100000002 : readBoardAux P2 9 (⟨N1, N0, N0, N0, N0, N0, N0, N0, N2⟩ : Grid) P2 = some (ZP, some M02) :=
  readBoardAux_step P2 8 (⟨N1, N0, N0, N0, N0, N0, N0, N0, N2⟩ : Grid) P2 [M01, M02, M10, M11, M12, M20, M21] rfl rfl
    (collectScores_cons v120000002 (collectScores_cons v102000002 (collectScores_cons v100200002 (collectScores_cons v100020002 (collectScores_cons v100002002 (collectScores_cons v100000202 (collectScores_cons v100000022 collectScores_nil))))))) rfl

theorem v010000002 : readBoardAux P2 9 (⟨N0, N1, N0, N0, N0, N0, N0, N0, N2⟩ : Grid) P2 = some (ZP, some M02) :=
  readBoardAux_step P2 8 (⟨N0, N1, N0, N0, N0, N0, N0, N0, N2⟩ : Grid) P2 [M00, M02, M10, M11, M12, M20, M21] rfl rfl
    (collectScores_cons v210000002 (collectScores_cons v012000002 (collectScores_cons v010200002 (collectScores_cons v010020002 (collectScores_cons v010002002 (collectScores_cons v010000202 (collectScores_cons v010000022 collectScores_nil))))))) rfl

theorem v001000002 : readBoardAux P2 9 (⟨N0, N0, N1, N0, N0, N0, N0, N0, N2⟩ : Grid) P2 = some (ZP, some M00) :=
  readBoardAux_step P2 8 (⟨N0, N0, N1, N0, N0, N0, N0, N0, N2⟩ : Grid) P2 [M00, M01, M10, M11, M12, M20, M21] rfl rfl
    (collectScores_cons v201000002 (collectScores_cons v021000002 (collectScores_cons v001200002 (collectScores_cons v001020002 (collectScores_cons v001002002 (collectScores_cons v001000202 (collectScores_cons v001000022 collectScores_nil))))))) rfl

theorem v000100002 : readBoardAux P2 9 (⟨N0, N0, N0, N1, N0, N0, N0, N0, N2⟩ : Grid) P2 = some (ZP, some M02) :=
  readBoardAux_step P2 8 (⟨N0, N0, N0, N1, N0, N0, N0, N0, N2⟩ : Grid) P2 [M00, M01, M02, M11, M12, M20, M21] rfl rfl
    (collectScores_cons v200100002 (collectScores_cons v020100002 (collectScores_cons v002100002 (collectScores_cons v000120002 (collectScores_cons v000102002 (collectScores_cons v000100202 (collectScores_cons v000100022 collectScores_nil))))))) rfl

theorem v000010002 : readBoardAux P2 9 (⟨N0, N0, N0, N0, N1, N0, N0, N0, N2⟩ : Grid) P2 = some (Z0, some M00) :=
  readBoardAux_step P2 8 (⟨N0, N0, N0, N0, N1, N0, N0, N0, N2⟩ : Grid) P2 [M00, M01, M02, M10, M12, M20, M21] rfl rfl
    (collectScores_cons v200010002 (collectScores_cons v020010002 (collectScores_cons v002010002 (collectScores_cons v000210002 (collectScores_cons v000012002 (collectScores_cons v000010202 (collectScores_cons v000010022 collectScores_nil))))))) rfl

theorem v000001002 : readBoardAux P2 9 (⟨N0, N0, N0, N0, N0, N1, N0, N0, N2⟩ : Grid) P2 = some (ZP, some M11) :=
  readBoardAux_step P2 8 (⟨N0, N0, N0, N0, N0, N1, N0, N0, N2⟩ : Grid) P2 [M00, M01, M02, M10, M11, M20, M21] rfl rfl
    (collectScores_cons v200001002 (collectScores_cons v020001002 (collectScores_cons v002001002 (collectScores_cons v000201002 (collectScores_cons v000021002 (collectScores_cons v000001202 (collectScores_cons v000001022 collectScores_nil))))))) rfl

theorem v000000102 : readBoardAux P2 9 (⟨N0, N0, N0, N0, N0, N0, N1, N0, N2⟩ : Grid) P2 = some (ZP, some M00) :=
  readBoardAux_step P2 8 (⟨N0, N0, N0, N0, N0, N0, N1, N0, N2⟩ : Grid) P2 [M00, M01, M02, M10, M11, M12, M21] rfl rfl
    (collectScores_cons v200000102 (collectScores_cons v020000102 (collectScores_cons v002000102 (collectScores_cons v000200102 (collectScores_cons v000020102 (collectScores_cons v000002102 (collectScores_cons v000000122 collectScores_nil))))))) rfl

theorem v000000012 : readBoardAux P2 9 (⟨N0, N0, N0, N0, N0, N0, N0, N1, N2⟩ : Grid) P2 = some (ZP, some M02) :=
  readBoardAux_step P2 8 (⟨N0, N0, N0, N0, N0, N0, N0, N1, N2⟩ : Grid) P2 [M00, M01, M02, M10, M11, M12, M20] rfl rfl
    (collectScores_cons v200000012 (collectScores_cons v020000012 (collectScores_cons v002000012 (collectScores_cons v000200012 (collectScores_cons v000020012 (collectScores_cons v000002012 (collectScores_cons v000000212 collectScores_nil))))))) rfl

theorem v000000002 : readBoardAux P2 10 (⟨N0, N0, N0, N0, N0, N0, N0, N0, N2⟩ : Grid) P1 = some (Z0, some M11) :=
  readBoardAux_step P2 9 (⟨N0, N0, N0, N0, N0, N0, N0, N0, N2⟩ : Grid) P1 [M00, M01, M02, M10, M11, M12, M20, M21] rfl rfl
    (collectScores_cons v100000002 (collectScores_cons v010000002 (collectScores_cons v001000002 (collectScores_cons v000100002 (collectScores_cons v000010002 (collectScores_cons v000001002 (collectScores_cons v000000102 (collectScores_cons v000000012 collectScores_nil)))))))) rfl

theorem v000000000 : readBoardAux P2 11 (⟨N0, N0, N0, N0, N0, N0, N0, N0, N0⟩ : Grid) P2 = some (Z0, some M00) :=
  readBoardAux_step P2 10 (⟨N0, N0, N0, N0, N0, N0, N0, N0, N0⟩ : Grid) P2 [M00, M01, M02, M10, M11, M12, M20, M21, M22] rfl rfl
    (collectScores_cons v200000000 (collectScores_cons v020000000 (collectScores_cons v002000000 (collectScores_cons v000200000 (collectScores_cons v000020000 (collectScores_cons v000002000 (collectScores_cons v000000200 (collectScores_cons v000000020 (collectScores_cons v000000002 collectScores_nil))))))))) rfl


/-! ### Elementary facts relating the mask scan to the spec predicates -/

theorem mem_coords {i j : Nat} : (i, j) ∈ coords ↔ i < 3 ∧ j < 3 := by
  simp [coords, Prod.ext_iff]
  omega

theorem check_mask_iff (g : Grid) (p : Nat) :
    check (mask g p) = true ↔ winsProp g p := by
  constructor
  · intro h
    simp only [check, mask, Bool.or_eq_true, Bool.and_eq_true, beq_iff_eq] at h
    rcases h with ((((⟨⟨a1, a2⟩, a3⟩ | ⟨⟨a1, a2⟩, a3⟩) | (⟨⟨a1, a2⟩, a3⟩ | ⟨⟨a1, a2⟩, a3⟩)) |
      (⟨⟨a1, a2⟩, a3⟩ | ⟨⟨a1, a2⟩, a3⟩)) | ⟨⟨a1, a2⟩, a3⟩) | ⟨⟨a1, a2⟩, a3⟩
    · exact Or.inl ⟨0, by intro j; fin_cases j <;> assumption⟩
    · exact Or.inr (Or.inl ⟨0, by intro i; fin_cases i <;> assumption⟩)
    · exact Or.inl ⟨1, by intro j; fin_cases j <;> assumption⟩
    · exact Or.inr (Or.inl ⟨1, by intro i; fin_cases i <;> assumption⟩)
    · exact Or.inl ⟨2, by intro j; fin_cases j <;> assumption⟩
    · exact Or.inr (Or.inl ⟨2, by intro i; fin_cases i <;> assumption⟩)
    · exact Or.inr (Or.inr (Or.inl (by intro k; fin_cases k <;> assumption)))
    · exact Or.inr (Or.inr (Or.inr (by intro k; fin_cases k <;> assumption)))
  · intro h
    simp only [check, mask, Bool.or_eq_true, Bool.and_eq_true, beq_iff_eq]
    rcases h with ⟨i, h⟩ | ⟨j, h⟩ | h | h
    · fin_cases i
      · exact Or.inl (Or.inl (Or.inl (Or.inl (Or.inl ⟨⟨h 0, h 1⟩, h 2⟩))))
      · exact Or.inl (Or.inl (Or.inl (Or.inr (Or.inl ⟨⟨h 0, h 1⟩, h 2⟩))))
      · exact Or.inl (Or.inl (Or.inr (Or.inl ⟨⟨h 0, h 1⟩, h 2⟩)))
    · fin_cases j
      · exact Or.inl (Or.inl (Or.inl (Or.inl (Or.inr ⟨⟨h 0, h 1⟩, h 2⟩))))
      · exact Or.inl (Or.inl (Or.inl (Or.inr (Or.inr ⟨⟨h 0, h 1⟩, h 2⟩))))
      · exact Or.inl (Or.inl (Or.inr (Or.inr ⟨⟨h 0, h 1⟩, h 2⟩)))
    · exact Or.inl (Or.inr ⟨⟨h 0, h 1⟩, h 2⟩)
    · exact Or.inr ⟨⟨h 0, h 1⟩, h 2⟩

theorem anyEmpty_iff (g : Grid) : anyEmpty g = true ↔ existsEmpty g := by
  simp only [anyEmpty, List.any_eq_true, beq_iff_eq]
  constructor
  · rintro ⟨⟨i, j⟩, hmem, hij⟩
    fin_cases hmem
    · exact ⟨0, 0, hij⟩
    · exact ⟨0, 1, hij⟩
    · exact ⟨0, 2, hij⟩
    · exact ⟨1, 0, hij⟩
    · exact ⟨1, 1, hij⟩
    · exact ⟨1, 2, hij⟩
    · exact ⟨2, 0, hij⟩
    · exact ⟨2, 1, hij⟩
    · exact ⟨2, 2, hij⟩
  · rintro ⟨i, j, hij⟩
    refine ⟨(i.val, j.val), ?_, hij⟩
    fin_cases i <;> fin_cases j <;> decide

/-! ### Reading and writing single cells -/

theorem get_setCell_same (g : Grid) {i j : Nat} (hi : i < 3) (hj : j < 3) (v : Int) :
    get (setCell g i j v) i j = u8 v := by
  interval_cases i <;> interval_cases j <;> simp [get, setCell]

theorem get_setCell_other (g : Grid) {i j i' j' : Nat} (hi : i < 3) (hj : j < 3)
    (hi' : i' < 3) (hj' : j' < 3) (hne : (i', j') ≠ (i, j)) (v : Int) :
    get (setCell g i j v) i' j' = get g i' j' := by
  interval_cases i <;> interval_cases j <;> interval_cases i' <;> interval_cases j' <;>
    simp_all [get, setCell]

theorem setCell_zero_eq (g : Grid) {i j : Nat} (hi : i < 3) (hj : j < 3)
    (hij : get g i j = 0) {v : Int} (hv : u8 v = 0) : setCell g i j v = g := by
  cases g
  interval_cases i <;> interval_cases j <;> simp_all [get, setCell]

/-! ### The empty-cell list -/

theorem mem_empties {g : Grid} {i j : Nat} :
    (i, j) ∈ empties g ↔ (i < 3 ∧ j < 3) ∧ get g i j = 0 := by
  simp only [empties, List.mem_filter, beq_iff_eq, mem_coords]

theorem coords_nodup : coords.Nodup := by decide

theorem empties_length_le (g : Grid) : emptyCount g ≤ 9 :=
  List.length_filter_le _ _

theorem empties_ne_nil {g : Grid} (h : check_board g = 0) : empties g ≠ [] := by
  unfold check_board at h
  rcases hb1 : check (mask g 1) <;> rcases hb2 : check (mask g 2) <;>
    rcases hbe : anyEmpty g <;> simp [hb1, hb2, hbe] at h
  · intro hnil
    rcases List.any_eq_true.mp hbe with ⟨ij, hmem, hij⟩
    have : ij ∈ empties g := List.mem_filter.mpr ⟨hmem, hij⟩
    simp [hnil] at this

/-- A list with one distinguished element whose boolean predicate flips
from `true` to `false`, all other elements unchanged: the filtered
length drops by exactly one. -/
theorem filter_length_flip {α : Type} (p q : α → Bool) :
    ∀ (l : List α), l.Nodup → ∀ a ∈ l, p a = true → q a = false →
    (∀ x ∈ l, x ≠ a → q x = p x) →
    (l.filter q).length + 1 = (l.filter p).length := by
  intro l
  induction l with
  | nil => intro _ a ha; cases ha
  | cons b l ih =>
    intro hnd a ha hpa hqa hother
    rcases List.mem_cons.mp ha with rfl | hal
    · have hq : l.filter q = l.filter p := by
        apply List.filter_congr
        intro x hx
        exact hother x (List.mem_cons_of_mem _ hx)
          (fun hxa => (List.nodup_cons.mp hnd).1 (hxa ▸ hx))
      simp [List.filter_cons, hpa, hqa, hq]
    · have hb : b ≠ a := fun hba => (List.nodup_cons.mp hnd).1 (hba ▸ hal)
      have hqb : q b = p b := hother b (List.mem_cons_self _ _) hb
      have ihr := ih (List.nodup_cons.mp hnd).2 a hal hpa hqa
        (fun x hx hxa => hother x (List.mem_cons_of_mem _ hx) hxa)
      rcases hpb : p b <;> simp [List.filter_cons, hpb, hqb ▸ hpb, hqb] <;> omega

theorem emptyCount_setCell {g : Grid} {i j : Nat} (hmem : (i, j) ∈ empties g)
    {v : Int} (hv : u8 v ≠ 0) :
    emptyCount (setCell g i j v) + 1 = emptyCount g := by
  obtain ⟨⟨hi, hj⟩, hij⟩ := mem_empties.mp hmem
  apply filter_length_flip _ _ coords coords_nodup (i, j) (mem_coords.mpr ⟨hi, hj⟩)
  · simp [hij]
  · simp [get_setCell_same g hi hj v, hv]
  · rintro ⟨i', j'⟩ hmem' hne
    obtain ⟨hi', hj'⟩ := mem_coords.mp hmem'
    simp [get_setCell_other g hi hj hi' hj' hne v]

/-! ### Totality of the search -/

theorem u8_nextPlayer_ne_zero (p : Int) : u8 (nextPlayer p) ≠ 0 := by
  unfold nextPlayer
  split <;> decide

theorem collectScores_total (rec : Grid → Int → Option (Int × Option (Nat × Nat)))
    (g : Grid) (p : Int) :
    ∀ ms : List (Nat × Nat),
      (∀ ij ∈ ms, (rec (setCell g ij.1 ij.2 p) (nextPlayer p)).isSome) →
      ∃ ss, collectScores rec g p ms = some ss := by
  intro ms
  induction ms with
  | nil => exact fun _ => ⟨[], rfl⟩
  | cons ij rest ih =>
    intro h
    obtain ⟨⟨s, m⟩, hsm⟩ := Option.isSome_iff_exists.mp (h ij (List.mem_cons_self _ _))
    obtain ⟨ss, hss⟩ := ih (fun x hx => h x (List.mem_cons_of_mem _ hx))
    exact ⟨s :: ss, by simp [collectScores, hsm, hss]⟩

theorem collectScores_length (rec : Grid → Int → Option (Int × Option (Nat × Nat)))
    (g : Grid) (p : Int) :
    ∀ (ms : List (Nat × Nat)) (ss : List Int),
      collectScores rec g p ms = some ss → ss.length = ms.length := by
  intro ms
  induction ms with
  | nil =>
    intro ss h
    simp [collectScores] at h
    simp [← h]
  | cons ij rest ih =>
    intro ss h
    simp only [collectScores] at h
    rcases hc : rec (setCell g ij.1 ij.2 p) (nextPlayer p) with _ | ⟨s, m⟩ <;>
      rw [hc] at h
    · simp at h
    · rcases hr : collectScores rec g p rest with _ | ss' <;> rw [hr] at h
      · simp at h
      · obtain rfl : s :: ss' = ss := by simpa using h
        simp [ih ss' hr]

theorem readBoardAux_isSome (self : Int) :
    ∀ (fuel : Nat) (g : Grid) (p : Int),
      emptyCount g + (if u8 p = 0 then 2 else 1) ≤ fuel →
      (readBoardAux self fuel g p).isSome := by
  intro fuel
  induction fuel with
  | zero =>
    intro g p h
    exfalso
    by_cases hz : u8 p = 0 <;> simp [hz] at h
  | succ n ih =>
    intro g p h
    by_cases h0 : check_board g = 0
    · have hchild : ∀ ij ∈ empties g,
          (readBoardAux self n (setCell g ij.1 ij.2 p) (nextPlayer p)).isSome := by
        intro ij hij
        obtain ⟨⟨hi, hj⟩, hcell⟩ := mem_empties.mp hij
        apply ih
        rw [if_neg (u8_nextPlayer_ne_zero p)]
        by_cases hp : u8 p = 0
        · rw [setCell_zero_eq g hi hj hcell hp]
          rw [if_pos hp] at h
          omega
        · have hdec := emptyCount_setCell hij hp
          rw [if_neg hp] at h
          omega
      obtain ⟨ss, hss⟩ := collectScores_total (readBoardAux self n) g p (empties g) hchild
      simp only [readBoardAux, h0, hss, ne_eq, eq_self_iff_true, not_true_eq_false,
        ite_false]
      split <;> simp
    · simp [readBoardAux, h0]

/-! ### First-occurrence argmax and argmin -/

theorem argmaxIdx_lt_length : ∀ {l : List Int}, l ≠ [] → argmaxIdx l < l.length := by
  intro l
  induction l with
  | nil => intro h; cases h rfl
  | cons x xs ih =>
    intro _
    cases xs with
    | nil => simp [argmaxIdx]
    | cons y ys =>
      simp only [argmaxIdx]
      split
      · have := ih (by simp)
        simpa using Nat.succ_lt_succ this
      · simp

theorem getD_argmaxIdx : ∀ {l : List Int}, l ≠ [] →
    l.getD (argmaxIdx l) 0 = listMax l := by
  intro l
  induction l with
  | nil => intro h; cases h rfl
  | cons x xs ih =>
    intro _
    cases xs with
    | nil => simp [argmaxIdx, listMax]
    | cons y ys =>
      simp only [argmaxIdx, listMax]
      split
      · rename_i hgt
        simpa [List.getD] using (ih (by simp)).trans (max_eq_right hgt.le).symm
      · rename_i hle
        simp only [List.getD_cons_zero]
        omega

theorem getD_le_listMax : ∀ (l : List Int) (k : Nat), k < l.length →
    l.getD k 0 ≤ listMax l := by
  intro l
  induction l with
  | nil => intro k h; simp at h
  | cons x xs ih =>
    intro k hk
    cases xs with
    | nil =>
      have hk0 : k = 0 := by simp at hk; omega
      subst hk0
      simp [listMax]
    | cons y ys =>
      simp only [listMax]
      cases k with
      | zero => simp
      | succ m =>
        have := ih m (by simpa using Nat.lt_of_succ_lt_succ hk)
        simp only [List.getD_cons_succ]
        omega

theorem getD_lt_of_lt_argmaxIdx : ∀ {l : List Int} {m : Nat}, m < argmaxIdx l →
    l.getD m 0 < listMax l := by
  intro l
  induction l with
  | nil => intro m h; simp [argmaxIdx] at h
  | cons x xs ih =>
    intro m hm
    cases xs with
    | nil => simp [argmaxIdx] at hm
    | cons y ys =>
      simp only [argmaxIdx] at hm
      rcases hsplit : (if listMax (y :: ys) > x then argmaxIdx (y :: ys) + 1 else 0) with _ | k
      · omega
      · rw [hsplit] at hm
        by_cases hgt : listMax (y :: ys) > x
        · rw [if_pos hgt] at hsplit
          simp only [listMax]
          cases m with
          | zero => simp; omega
          | succ m' =>
            have : m' < argmaxIdx (y :: ys) := by omega
            have := ih this
            simp only [List.getD_cons_succ]
            omega
        · rw [if_neg hgt] at hsplit
          cases hsplit

theorem argminIdx_lt_length : ∀ {l : List Int}, l ≠ [] → argminIdx l < l.length := by
  intro l
  induction l with
  | nil => intro h; cases h rfl
  | cons x xs ih =>
    intro _
    cases xs with
    | nil => simp [argminIdx]
    | cons y ys =>
      simp only [argminIdx]
      split
      · have := ih (by simp)
        simpa using Nat.succ_lt_succ this
      · simp

theorem getD_argminIdx : ∀ {l : List Int}, l ≠ [] →
    l.getD (argminIdx l) 0 = listMin l := by
  intro l
  induction l with
  | nil => intro h; cases h rfl
  | cons x xs ih =>
    intro _
    cases xs with
    | nil => simp [argminIdx, listMin]
    | cons y ys =>
      simp only [argminIdx, listMin]
      split
      · rename_i hlt
        simpa [List.getD] using (ih (by simp)).trans (min_eq_right hlt.le).symm
      · rename_i hge
        simp only [List.getD_cons_zero]
        omega

theorem listMin_le_getD : ∀ (l : List Int) (k : Nat), k < l.length →
    listMin l ≤ l.getD k 0 := by
  intro l
  induction l with
  | nil => intro k h; simp at h
  | cons x xs ih =>
    intro k hk
    cases xs with
    | nil =>
      have hk0 : k = 0 := by simp at hk; omega
      subst hk0
      simp [listMin]
    | cons y ys =>
      simp only [listMin]
      cases k with
      | zero => simp
      | succ m =>
        have := ih m (by simpa using Nat.lt_of_succ_lt_succ hk)
        simp only [List.getD_cons_succ]
        omega

theorem listMin_lt_of_lt_argminIdx : ∀ {l : List Int} {m : Nat}, m < argminIdx l →
    listMin l < l.getD m 0 := by
  intro l
  induction l with
  | nil => intro m h; simp [argminIdx] at h
  | cons x xs ih =>
    intro m hm
    cases xs with
    | nil => simp [argminIdx] at hm
    | cons y ys =>
      simp only [argminIdx] at hm
      rcases hsplit : (if listMin (y :: ys) < x then argminIdx (y :: ys) + 1 else 0) with _ | k
      · omega
      · rw [hsplit] at hm
        by_cases hlt : listMin (y :: ys) < x
        · rw [if_pos hlt] at hsplit
          simp only [listMin]
          cases m with
          | zero => simp; omega
          | succ m' =>
            have : m' < argminIdx (y :: ys) := by omega
            have := ih this
            simp only [List.getD_cons_succ]
            omega
        · rw [if_neg hlt] at hsplit
          cases hsplit

/-! ### The claims -/

/-- C1: on the empty board, the agent's exhaustive minimax search —
agent mark 2, with the agent itself to move — returns score 0 (and the
first cell (0,0) as its move, by the stable argmax tie-break):
tic-tac-toe from the empty board is a forced draw under optimal play by
both sides. -/
theorem spec_C1 : read_board 2 zeros 2 = some (0, some (0, 0)) :=
  v000000000

/-- C4: `check_board` returns exactly one of 1, 2, 0, -1; it returns 0
(InProgress) exactly when neither player has a three-in-a-row and some
cell is Empty, and -1 (Draw) exactly when neither player has a
three-in-a-row and no cell is Empty. -/
theorem spec_C4 (g : Grid) :
    (check_board g = 1 ∨ check_board g = 2 ∨ check_board g = 0 ∨ check_board g = -1) ∧
    (check_board g = 0 ↔ ¬winsProp g 1 ∧ ¬winsProp g 2 ∧ existsEmpty g) ∧
    (check_board g = -1 ↔ ¬winsProp g 1 ∧ ¬winsProp g 2 ∧ ¬existsEmpty g) := by
  have hw1 := check_mask_iff g 1
  have hw2 := check_mask_iff g 2
  have hee := anyEmpty_iff g
  unfold check_board
  cases hb1 : check (mask g 1) <;> cases hb2 : check (mask g 2) <;>
    cases hbe : anyEmpty g <;>
    rw [hb1] at hw1 <;> rw [hb2] at hw2 <;> rw [hbe] at hee <;>
    simp_all

/-- C5: on a (degenerate) board where both players have completed lines,
`check_board` deterministically reports player 1's win. -/
theorem spec_C5 (g : Grid) (h1 : winsProp g 1) (_h2 : winsProp g 2) :
    check_board g = 1 := by
  unfold check_board
  rw [if_pos ((check_mask_iff g 1).mpr h1)]

theorem spec_C5_witness : check_board ⟨1, 1, 1, 2, 2, 2, 0, 0, 0⟩ = 1 :=
  spec_C5 ⟨1, 1, 1, 2, 2, 2, 0, 0, 0⟩ (by decide) (by decide)

/-- C3: on a terminal board `read_board` proposes no move and scores it
0 for a draw, +1 when the winner is the agent itself, and -1 when the
winner is the opponent (`3 - self`). -/
theorem spec_C3 (self p : Int) (g : Grid) (hself : self = 1 ∨ self = 2)
    (hterm : check_board g ≠ 0) :
    (check_board g = -1 → read_board self g p = some (0, none)) ∧
    (check_board g = self → read_board self g p = some (1, none)) ∧
    (check_board g = 3 - self → read_board self g p = some (-1, none)) ∧
    ∃ s : Int, read_board self g p = some (s, none) := by
  have hrb : read_board self g p =
      some ((if check_board g = -1 then 0
             else if check_board g = self then 1 else -1), none) := by
    show readBoardAux self (10 + 1) g p = _
    simp [readBoardAux, hterm]
  refine ⟨?_, ?_, ?_, ⟨_, hrb⟩⟩
  · intro h
    rw [hrb, if_pos h]
  · intro h
    rw [hrb, if_neg (by rcases hself with rfl | rfl <;> omega), if_pos h]
  · intro h
    rw [hrb, if_neg (by rcases hself with rfl | rfl <;> omega),
      if_neg (by rcases hself with rfl | rfl <;> omega)]

theorem spec_C3_witness :
    (check_board (⟨1, 1, 1, 2, 2, 0, 0, 0, 0⟩ : Grid) = -1 →
      read_board 2 ⟨1, 1, 1, 2, 2, 0, 0, 0, 0⟩ 1 = some (0, none)) ∧
    (check_board (⟨1, 1, 1, 2, 2, 0, 0, 0, 0⟩ : Grid) = 2 →
      read_board 2 ⟨1, 1, 1, 2, 2, 0, 0, 0, 0⟩ 1 = some (1, none)) ∧
    (check_board (⟨1, 1, 1, 2, 2, 0, 0, 0, 0⟩ : Grid) = 3 - 2 →
      read_board 2 ⟨1, 1, 1, 2, 2, 0, 0, 0, 0⟩ 1 = some (-1, none)) ∧
    ∃ s : Int, read_board 2 ⟨1, 1, 1, 2, 2, 0, 0, 0, 0⟩ 1 = some (s, none) :=
  spec_C3 2 1 ⟨1, 1, 1, 2, 2, 0, 0, 0, 0⟩ (Or.inr rfl) (by decide)

/-- C6: `play` rejects out-of-range coordinates and occupied cells
without touching the grid, and accepts a mark on an in-range Empty cell,
writing exactly that cell. -/
theorem spec_C6 (g : Grid) (player row col : Int) :
    ((row < 0 ∨ 2 < row ∨ col < 0 ∨ 2 < col) → play g player row col = (false, g)) ∧
    (0 ≤ row → row ≤ 2 → 0 ≤ col → col ≤ 2 → get g row.toNat col.toNat ≠ 0 →
      play g player row col = (false, g)) ∧
    (0 ≤ row → row ≤ 2 → 0 ≤ col → col ≤ 2 → get g row.toNat col.toNat = 0 →
      (player = 1 ∨ player = 2) →
      (play g player row col).1 = true ∧
      ((get (play g player row col).2 row.toNat col.toNat : Int) = player) ∧
      (∀ r c : Nat, r < 3 → c < 3 → (r, c) ≠ (row.toNat, col.toNat) →
        get (play g player row col).2 r c = get g r c)) := by
  refine ⟨?_, ?_, ?_⟩
  · intro h
    unfold play
    rw [if_pos h]
  · intro h1 h2 h3 h4 hocc
    unfold play
    rw [if_neg (by omega), if_pos hocc]
  · intro h1 h2 h3 h4 hemp hp
    unfold play
    rw [if_neg (by omega), if_neg (by simp [hemp])]
    have hrn : row.toNat < 3 := by omega
    have hcn : col.toNat < 3 := by omega
    refine ⟨rfl, ?_, ?_⟩
    · rw [get_setCell_same g hrn hcn player]
      rcases hp with rfl | rfl <;> decide
    · intro r c hr hc hne
      exact get_setCell_other g hrn hcn hr hc hne player

/-- C10 (counterexample to "written as given"): `play` with the
out-of-range mark 256 on an Empty cell reports success, yet the cell
does not hold 256 — numpy's uint8 assignment truncates. -/
theorem spec_C10_counterexample :
    (play zeros 256 0 0).1 = true ∧
    ¬ ((get (play zeros 256 0 0).2 0 0 : Int) = 256) := by decide

/-- C10 (amended): `play` does not validate the mark: on an in-range
Empty cell it always succeeds, and writes the mark truncated modulo 256
(`u8`); in particular a mark congruent to 0 mod 256 — including the
Empty sentinel 0 itself — leaves the grid entirely unchanged while still
reporting a valid move. -/
theorem spec_C10 (g : Grid) (p row col : Int)
    (h1 : 0 ≤ row) (h2 : row ≤ 2) (h3 : 0 ≤ col) (h4 : col ≤ 2)
    (hemp : get g row.toNat col.toNat = 0) :
    (play g p row col).1 = true ∧
    get (play g p row col).2 row.toNat col.toNat = u8 p ∧
    (u8 p = 0 → (play g p row col).2 = g) := by
  unfold play
  rw [if_neg (by omega), if_neg (by simp [hemp])]
  have hrn : row.toNat < 3 := by omega
  have hcn : col.toNat < 3 := by omega
  exact ⟨rfl, get_setCell_same g hrn hcn p,
    fun hz => setCell_zero_eq g hrn hcn hemp hz⟩

theorem spec_C10_witness :
    (play zeros 256 0 0).1 = true ∧
    get (play zeros 256 0 0).2 0 0 = u8 256 ∧
    (u8 256 = 0 → (play zeros 256 0 0).2 = zeros) :=
  spec_C10 zeros 256 0 0 (by decide) (by decide) (by decide) (by decide) (by decide)

/-- C8: the search is total — with the standing fuel, `read_board`
always returns a result, because (for a real mark 1 or 2) every
recursive call strictly decreases the number of Empty cells. -/
theorem spec_C8 (self : Int) (g : Grid) (p : Int) :
    (read_board self g p).isSome = true ∧
    (∀ i j : Nat, (i, j) ∈ empties g → (p = 1 ∨ p = 2) →
      emptyCount (setCell g i j p) < emptyCount g) := by
  constructor
  · apply readBoardAux_isSome
    have h9 := empties_length_le g
    split <;> omega
  · intro i j hmem hp
    have hu : u8 p ≠ 0 := by rcases hp with rfl | rfl <;> decide
    have := emptyCount_setCell hmem hu
    omega

theorem spec_C8_witness :
    (read_board 2 zeros 2).isSome = true ∧
    emptyCount (setCell zeros 0 0 2) < emptyCount zeros :=
  ⟨(spec_C8 2 zeros 2).1, (spec_C8 2 zeros 2).2 0 0 (by decide) (Or.inr rfl)⟩

/-- C2: on a non-terminal board the candidate moves are exactly the
Empty cells, enumerated in row-major scan order, and `read_board`
returns the earliest-enumerated candidate attaining the maximum
backed-up score when `playerToMove` is the agent itself, and the
earliest attaining the minimum otherwise. -/
theorem spec_C2 (self p : Int) (g : Grid) (h0 : check_board g = 0) :
    (∀ ij ∈ empties g, (ij.1 < 3 ∧ ij.2 < 3) ∧ get g ij.1 ij.2 = 0) ∧
    (∀ i j : Nat, i < 3 → j < 3 → get g i j = 0 → (i, j) ∈ empties g) ∧
    (empties g).Pairwise (fun a b => 3 * a.1 + a.2 < 3 * b.1 + b.2) ∧
    ∃ scores : List Int,
      collectScores (readBoardAux self 10) g p (empties g) = some scores ∧
      scores.length = (empties g).length ∧
      ∃ k : Nat, k < (empties g).length ∧
        read_board self g p = some (scores.getD k 0, some ((empties g).getD k (0, 0))) ∧
        (self = p →
          (∀ m : Nat, m < scores.length → scores.getD m 0 ≤ scores.getD k 0) ∧
          (∀ m : Nat, m < k → scores.getD m 0 < scores.getD k 0)) ∧
        (self ≠ p →
          (∀ m : Nat, m < scores.length → scores.getD k 0 ≤ scores.getD m 0) ∧
          (∀ m : Nat, m < k → scores.getD k 0 < scores.getD m 0)) := by
  refine ⟨?_, ?_, ?_, ?_⟩
  · rintro ⟨i, j⟩ hij
    exact mem_empties.mp hij
  · intro i j hi hj hc
    exact mem_empties.mpr ⟨⟨hi, hj⟩, hc⟩
  · exact List.Pairwise.sublist (List.filter_sublist _)
      (by decide : coords.Pairwise (fun a b => 3 * a.1 + a.2 < 3 * b.1 + b.2))
  · have hchild : ∀ ij ∈ empties g,
        (readBoardAux self 10 (setCell g ij.1 ij.2 p) (nextPlayer p)).isSome := by
      intro ij _
      apply readBoardAux_isSome
      rw [if_neg (u8_nextPlayer_ne_zero p)]
      have := empties_length_le (setCell g ij.1 ij.2 p)
      omega
    obtain ⟨ss, hss⟩ := collectScores_total _ g p _ hchild
    have hlen := collectScores_length _ g p _ ss hss
    have hnil : empties g ≠ [] := empties_ne_nil h0
    have hsnil : ss ≠ [] := by
      intro h
      rw [h] at hlen
      exact hnil (List.length_eq_zero.mp hlen.symm)
    refine ⟨ss, hss, hlen, ?_⟩
    by_cases hsp : self = p
    · refine ⟨argmaxIdx ss, ?_, ?_, ?_, fun hne => absurd hsp hne⟩
      · rw [← hlen]
        exact argmaxIdx_lt_length hsnil
      · have hrb : read_board self g p =
            some (listMax ss, some ((empties g).getD (argmaxIdx ss) (0, 0))) :=
          readBoardAux_step self 10 g p (empties g) rfl h0 hss (if_pos hsp)
        rw [hrb, getD_argmaxIdx hsnil]
      · intro _
        constructor
        · intro m hm
          rw [getD_argmaxIdx hsnil]
          exact getD_le_listMax ss m hm
        · intro m hm
          rw [getD_argmaxIdx hsnil]
          exact getD_lt_of_lt_argmaxIdx hm
    · refine ⟨argminIdx ss, ?_, ?_, fun heq => absurd heq hsp, ?_⟩
      · rw [← hlen]
        exact argminIdx_lt_length hsnil
      · have hrb : read_board self g p =
            some (listMin ss, some ((empties g).getD (argminIdx ss) (0, 0))) :=
          readBoardAux_step self 10 g p (empties g) rfl h0 hss (if_neg hsp)
        rw [hrb, getD_argminIdx hsnil]
      · intro _
        constructor
        · intro m hm
          rw [getD_argminIdx hsnil]
          exact listMin_le_getD ss m hm
        · intro m hm
          rw [getD_argminIdx hsnil]
          exact listMin_lt_of_lt_argminIdx hm

theorem spec_C2_witness :
    (∀ ij ∈ empties (⟨1, 2, 1, 2, 1, 2, 2, 1, 0⟩ : Grid),
      (ij.1 < 3 ∧ ij.2 < 3) ∧ get ⟨1, 2, 1, 2, 1, 2, 2, 1, 0⟩ ij.1 ij.2 = 0) ∧
    (∀ i j : Nat, i < 3 → j < 3 → get ⟨1, 2, 1, 2, 1, 2, 2, 1, 0⟩ i j = 0 →
      (i, j) ∈ empties (⟨1, 2, 1, 2, 1, 2, 2, 1, 0⟩ : Grid)) ∧
    (empties (⟨1, 2, 1, 2, 1, 2, 2, 1, 0⟩ : Grid)).Pairwise
      (fun a b => 3 * a.1 + a.2 < 3 * b.1 + b.2) ∧
    ∃ scores : List Int,
      collectScores (readBoardAux 2 10) ⟨1, 2, 1, 2, 1, 2, 2, 1, 0⟩ 2
        (empties (⟨1, 2, 1, 2, 1, 2, 2, 1, 0⟩ : Grid)) = some scores ∧
      scores.length = (empties (⟨1, 2, 1, 2, 1, 2, 2, 1, 0⟩ : Grid)).length ∧
      ∃ k : Nat, k < (empties (⟨1, 2, 1, 2, 1, 2, 2, 1, 0⟩ : Grid)).length ∧
        read_board 2 ⟨1, 2, 1, 2, 1, 2, 2, 1, 0⟩ 2 =
          some (scores.getD k 0,
            some ((empties (⟨1, 2, 1, 2, 1, 2, 2, 1, 0⟩ : Grid)).getD k (0, 0))) ∧
        ((2 : Int) = 2 →
          (∀ m : Nat, m < scores.length → scores.getD m 0 ≤ scores.getD k 0) ∧
          (∀ m : Nat, m < k → scores.getD m 0 < scores.getD k 0)) ∧
        ((2 : Int) ≠ 2 →
          (∀ m : Nat, m < scores.length → scores.getD k 0 ≤ scores.getD m 0) ∧
          (∀ m : Nat, m < k → scores.getD k 0 < scores.getD m 0)) :=
  spec_C2 2 2 ⟨1, 2, 1, 2, 1, 2, 2, 1, 0⟩ (by decide)

/-! ### Heap lemmas for the aliasing claims -/

theorem getD_append_lt {α : Type} (d : α) :
    ∀ (l l2 : List α) (k : Nat), k < l.length → (l ++ l2).getD k d = l.getD k d := by
  intro l
  induction l with
  | nil => intro l2 k hk; simp at hk
  | cons x xs ih =>
    intro l2 k hk
    cases k with
    | zero => simp
    | succ m => simpa using ih l2 m (by simpa using Nat.lt_of_succ_lt_succ hk)

theorem getD_set_ne {α : Type} (d : α) :
    ∀ (l : List α) (i k : Nat) (v : α), i ≠ k → (l.set i v).getD k d = l.getD k d := by
  intro l
  induction l with
  | nil => intro i k v _; simp
  | cons x xs ih =>
    intro i k v hne
    cases i with
    | zero =>
      cases k with
      | zero => cases hne rfl
      | succ m => simp
    | succ n =>
      cases k with
      | zero => simp
      | succ m => simpa using ih n m v (fun hnm => hne (by omega))

theorem getD_set_self {α : Type} (d : α) :
    ∀ (l : List α) (i : Nat) (v : α), i < l.length → (l.set i v).getD i d = v := by
  intro l
  induction l with
  | nil => intro i v hi; simp at hi
  | cons x xs ih =>
    intro i v hi
    cases i with
    | zero => simp
    | succ n => simpa using ih n v (by simpa using Nat.lt_of_succ_lt_succ hi)

theorem collectScoresH_frame
    (rec : List Grid → Nat → Int → Option ((Int × Option (Nat × Nat)) × List Grid))
    (hrec : ∀ (h : List Grid) (r : Nat) (p : Int) (res : Int × Option (Nat × Nat))
      (h2 : List Grid), rec h r p = some (res, h2) →
      h.length ≤ h2.length ∧ ∀ k, k < h.length → h2.getD k zeros = h.getD k zeros)
    (r : Nat) (player : Int) :
    ∀ (ms : List (Nat × Nat)) (h : List Grid) (ss : List Int) (h4 : List Grid),
      collectScoresH rec r player h ms = some (ss, h4) →
      h.length ≤ h4.length ∧ ∀ k, k < h.length → h4.getD k zeros = h.getD k zeros := by
  intro ms
  induction ms with
  | nil =>
    intro h ss h4 hc
    simp only [collectScoresH, Option.some_inj, Prod.mk.injEq] at hc
    rw [← hc.2]
    exact ⟨le_refl _, fun k _ => rfl⟩
  | cons ij rest ih =>
    intro h ss h4 hc
    simp only [collectScoresH] at hc
    split at hc
    · cases hc
    · rename_i sm h3 hEq
      split at hc
      · cases hc
      · rename_i ss2 h42 hR
        obtain ⟨-, rfl⟩ : sm.1 :: ss2 = ss ∧ h42 = h4 := by
          simpa using hc
        have hlen2 : ((h ++ [h.getD r zeros]).set h.length
            (setCell ((h ++ [h.getD r zeros]).getD h.length zeros) ij.1 ij.2 player)).length
            = h.length + 1 := by simp
        have hpre2 : ∀ k, k < h.length →
            ((h ++ [h.getD r zeros]).set h.length
              (setCell ((h ++ [h.getD r zeros]).getD h.length zeros) ij.1 ij.2 player)).getD
                k zeros = h.getD k zeros := by
          intro k hk
          rw [getD_set_ne zeros _ _ _ _ (by omega), getD_append_lt zeros _ _ _ hk]
        obtain ⟨hl3, hp3⟩ := hrec _ _ _ _ _ hEq
        obtain ⟨hl4, hp4⟩ := ih _ _ _ hR
        constructor
        · omega
        · intro k hk
          rw [hp4 k (by omega), hp3 k (by omega), hpre2 k hk]

theorem readBoardAuxH_frame (self : Int) :
    ∀ (fuel : Nat) (h : List Grid) (r : Nat) (p : Int)
      (res : Int × Option (Nat × Nat)) (h2 : List Grid),
      readBoardAuxH self fuel h r p = some (res, h2) →
      h.length ≤ h2.length ∧ ∀ k, k < h.length → h2.getD k zeros = h.getD k zeros := by
  intro fuel
  induction fuel with
  | zero => intro h r p res h2 hc; cases hc
  | succ n ih =>
    intro h r p res h2 hc
    simp only [readBoardAuxH, newBoard, set_board, boardOf] at hc
    have hpre : ∀ k, k < h.length → (h ++ [zeros]).getD k zeros = h.getD k zeros :=
      fun k hk => getD_append_lt zeros _ _ _ hk
    split at hc
    · obtain ⟨-, rfl⟩ : _ ∧ h ++ [zeros] = h2 := by simpa using hc
      exact ⟨by simp, fun k hk => hpre k hk⟩
    · split at hc
      · cases hc
      · rename_i scores h1 hcs
        obtain ⟨hl1, hp1⟩ := collectScoresH_frame (readBoardAuxH self n)
          (fun hh rr pp res2 hh2 => ih hh rr pp res2 hh2) r p _ _ _ _ hcs
        have hh2 : h1 = h2 := by
          split at hc <;>
            (simp only [Option.some.injEq, Prod.mk.injEq] at hc; exact hc.2)
        subst hh2
        have : (h ++ [zeros]).length = h.length + 1 := by simp
        constructor
        · omega
        · intro k hk
          rw [hp1 k (by omega), hpre k hk]

/-- C7: `read_board` never mutates the caller's array — every array that
existed before the call holds the same grid afterwards; in particular
the argument board is unchanged cell for cell. -/
theorem spec_C7 (self : Int) (h : List Grid) (r : Nat) (p : Int)
    (res : Int × Option (Nat × Nat)) (h2 : List Grid) (hr : r < h.length)
    (hcall : read_boardH self h r p = some (res, h2)) :
    h2.getD r zeros = h.getD r zeros ∧
    ∀ k, k < h.length → h2.getD k zeros = h.getD k zeros := by
  have hf := readBoardAuxH_frame self 11 h r p res h2 hcall
  exact ⟨hf.2 r hr, hf.2⟩

/-- C9: `set_board` installs the caller's array by reference: reads
through the object see external writes to that array, `play` through the
object writes that same array, while `get_board` hands out a fresh copy
whose mutation does not affect the object. -/
theorem spec_C9 (h : List Grid) (b : BoardObj) (r : Nat) (g2 : Grid)
    (hr : r < h.length) :
    (set_board b r).ref = r ∧
    boardOf (h.set r g2) (set_board b r) = g2 ∧
    (∀ player row col : Int,
      (playObj (h.set r g2) (set_board b r) player row col).2 =
        (h.set r g2).set r (play g2 player row col).2) ∧
    (b.ref < h.length →
      boardOf ((get_board h b).2.set (get_board h b).1 g2) b = boardOf h b) := by
  have hbo : boardOf (h.set r g2) (set_board b r) = g2 := by
    unfold boardOf set_board
    exact getD_set_self zeros h r g2 hr
  refine ⟨rfl, hbo, ?_, ?_⟩
  · intro player row col
    unfold playObj
    rw [hbo]
    rfl
  · intro hb
    unfold boardOf get_board
    rw [getD_set_ne zeros _ _ _ _ (by omega), getD_append_lt zeros _ _ _ hb]

theorem spec_C9_witness :
    (set_board ⟨0⟩ 0).ref = 0 ∧
    boardOf ([zeros].set 0 ⟨1, 0, 0, 0, 0, 0, 0, 0, 0⟩) (set_board ⟨0⟩ 0) =
      ⟨1, 0, 0, 0, 0, 0, 0, 0, 0⟩ ∧
    (playObj ([zeros].set 0 ⟨1, 0, 0, 0, 0, 0, 0, 0, 0⟩) (set_board ⟨0⟩ 0) 2 1 1).2 =
      ([zeros].set 0 ⟨1, 0, 0, 0, 0, 0, 0, 0, 0⟩).set 0
        (play ⟨1, 0, 0, 0, 0, 0, 0, 0, 0⟩ 2 1 1).2 ∧
    boardOf ((get_board [zeros] ⟨0⟩).2.set (get_board [zeros] ⟨0⟩).1
      ⟨1, 0, 0, 0, 0, 0, 0, 0, 0⟩) ⟨0⟩ = boardOf [zeros] ⟨0⟩ := by
  have hs := spec_C9 [zeros] ⟨0⟩ 0 ⟨1, 0, 0, 0, 0, 0, 0, 0, 0⟩ (by decide)
  exact ⟨hs.1, hs.2.1, hs.2.2.1 2 1 1, hs.2.2.2 (by decide)⟩

theorem spec_C7_witness :
    List.getD [(⟨1, 2, 1, 2, 1, 2, 2, 1, 0⟩ : Grid), zeros,
      ⟨1, 2, 1, 2, 1, 2, 2, 1, 2⟩, zeros] 0 zeros =
    List.getD [(⟨1, 2, 1, 2, 1, 2, 2, 1, 0⟩ : Grid)] 0 zeros :=
  (spec_C7 2 [⟨1, 2, 1, 2, 1, 2, 2, 1, 0⟩] 0 2 (0, some (2, 2))
    [⟨1, 2, 1, 2, 1, 2, 2, 1, 0⟩, zeros, ⟨1, 2, 1, 2, 1, 2, 2, 1, 2⟩, zeros]
    (by decide) (by decide)).1

end TicTacToe
